import Mathlib

/-!
# Bit-level model of the LP64 `fast_log` and `fast_pow` kernels

Source: `src/hotspot/src/cpu/x86/vm/macroAssembler_x86_libm.cpp`.

The kernels are sequences of assembler calls.  Each call is modelled as a function on a
machine state, each label as a function running the code that follows it, and each jump as
a call of the target label, so the Lean text follows the source line by line.  Floating
point instructions act on IEEE-754 bit patterns (round to nearest even, the default SSE
control word).
-/

/-! ## IEEE-754 arithmetic on bit patterns (round to nearest even, SSE NaN rules) -/

/-- Auxiliary binary search for the position of the leading one bit. -/
def ilog2Aux : Nat → Nat → Nat
  | 0, _ => 0
  | k + 1, x => if 2 ^ (2 ^ k) ≤ x then 2 ^ k + ilog2Aux k (x / 2 ^ (2 ^ k)) else ilog2Aux k x

/-- Position of the leading one bit of `x` (for `0 < x < 2^4096`). -/
def ilog2 (x : Nat) : Nat := ilog2Aux 12 x

/-- Round `sig / 2^k` to the nearest integer, ties to even. -/
def rne (sig k : Nat) : Nat :=
  let m := sig / 2 ^ k
  let r := sig % 2 ^ k
  let h := 2 ^ (k - 1)
  if k = 0 then m else if h < r ∨ (r = h ∧ m % 2 = 1) then m + 1 else m

/-- Generic rounding and packing.  The exact value is `(-1)^s * sig * 2^(e - ebase - p)`
where `p` is the number of stored mantissa bits, `w` the exponent width and the result has
biased exponent field computed relative to `ebase`; `e` carries a fixed offset so that it is
a natural number. -/
def roundPackG (p w : Nat) (ebase : Nat) (s sig e : Nat) : Nat :=
  let sbit := s * 2 ^ (p + w)
  let inf := (2 ^ w - 1) * 2 ^ p
  if sig = 0 then sbit else
  let n := ilog2 sig
  let q := max (n + e - p) (ebase + 1)
  let mant := if q ≤ e then sig * 2 ^ (e - q) else rne sig (q - e)
  let bits := (q - (ebase + 1)) * 2 ^ p + mant
  if inf ≤ bits then sbit + inf else sbit + bits

/-- Binary64 rounding: value `(-1)^s * sig * 2^(e - 4000)`. -/
def roundPack (s sig e : Nat) : Nat := roundPackG 52 11 2925 s sig e

/-- Binary32 rounding: value `(-1)^s * sig * 2^(e - 1000)`. -/
def roundPack32 (s sig e : Nat) : Nat := roundPackG 23 8 850 s sig e

def f64Sign (x : Nat) : Nat := x / 2 ^ 63 % 2
def f64Exp (x : Nat) : Nat := x / 2 ^ 52 % 2048
def f64Man (x : Nat) : Nat := x % 2 ^ 52
/-- Integer significand (hidden bit included for normal numbers). -/
def f64Sig (x : Nat) : Nat := if f64Exp x = 0 then f64Man x else 2 ^ 52 + f64Man x
/-- Effective biased exponent (subnormals share the exponent of the smallest normals). -/
def f64E (x : Nat) : Nat := if f64Exp x = 0 then 1 else f64Exp x
def f64IsNaN (x : Nat) : Bool := f64Exp x = 2047 ∧ f64Man x ≠ 0
def f64IsInf (x : Nat) : Bool := f64Exp x = 2047 ∧ f64Man x = 0
def f64IsZero (x : Nat) : Bool := f64Exp x = 0 ∧ f64Man x = 0
/-- Quiet a NaN: set the top mantissa bit. -/
def f64Quiet (x : Nat) : Nat := x ||| 2 ^ 51
/-- The default NaN produced by SSE for invalid operations ("real indefinite"). -/
def f64DefaultNaN : Nat := 0xFFF8000000000000
def f64Neg (x : Nat) : Nat := x ^^^ 2 ^ 63

/-- Sum of two non-NaN binary64 values. -/
def f64AddCore (a b : Nat) : Nat :=
  if f64IsInf a then (if f64IsInf b ∧ f64Sign a ≠ f64Sign b then f64DefaultNaN else a)
  else if f64IsInf b then b
  else
    let em := min (f64E a) (f64E b)
    let A := f64Sig a * 2 ^ (f64E a - em)
    let B := f64Sig b * 2 ^ (f64E b - em)
    if f64Sign a = f64Sign b then roundPack (f64Sign a) (A + B) (em + 2925)
    else if B < A then roundPack (f64Sign a) (A - B) (em + 2925)
    else if A < B then roundPack (f64Sign b) (B - A) (em + 2925)
    else 0

/-- Scalar double addition `a + b` as performed by `addsd` (destination operand `a`). -/
def f64Add (a b : Nat) : Nat :=
  if f64IsNaN a then f64Quiet a else if f64IsNaN b then f64Quiet b else f64AddCore a b

/-- Scalar double subtraction `a - b` as performed by `subsd`. -/
def f64Sub (a b : Nat) : Nat :=
  if f64IsNaN a then f64Quiet a else if f64IsNaN b then f64Quiet b else f64AddCore a (f64Neg b)

/-- Scalar double multiplication `a * b` as performed by `mulsd`. -/
def f64Mul (a b : Nat) : Nat :=
  let s := (f64Sign a + f64Sign b) % 2
  if f64IsNaN a then f64Quiet a else if f64IsNaN b then f64Quiet b
  else if f64IsInf a ∨ f64IsInf b then
    (if f64IsZero a ∨ f64IsZero b then f64DefaultNaN else s * 2 ^ 63 + 0x7FF0000000000000)
  else roundPack s (f64Sig a * f64Sig b) (f64E a + f64E b + 1850)

/-- Scalar double division `a / b` as performed by `divsd`. -/
def f64Div (a b : Nat) : Nat :=
  let s := (f64Sign a + f64Sign b) % 2
  if f64IsNaN a then f64Quiet a else if f64IsNaN b then f64Quiet b
  else if f64IsInf a then (if f64IsInf b then f64DefaultNaN else s * 2 ^ 63 + 0x7FF0000000000000)
  else if f64IsInf b then s * 2 ^ 63
  else if f64IsZero b then
    (if f64IsZero a then f64DefaultNaN else s * 2 ^ 63 + 0x7FF0000000000000)
  else
    let num := f64Sig a * 2 ^ 110
    let q := num / f64Sig b
    let sticky := if num % f64Sig b = 0 then 0 else 1
    roundPack s (2 * q + sticky) (f64E a + 3889 - f64E b)

/-- Conversion of a signed 32-bit integer (two's complement pattern) to binary64
(`cvtsi2sdl`); always exact. -/
def i32ToF64 (n : Nat) : Nat :=
  if n % 2 ^ 32 < 2 ^ 31 then roundPack 0 (n % 2 ^ 32) 4000
  else roundPack 1 (2 ^ 32 - n % 2 ^ 32) 4000

def f32Sign (x : Nat) : Nat := x / 2 ^ 31 % 2
def f32Exp (x : Nat) : Nat := x / 2 ^ 23 % 256
def f32Man (x : Nat) : Nat := x % 2 ^ 23
def f32Sig (x : Nat) : Nat := if f32Exp x = 0 then f32Man x else 2 ^ 23 + f32Man x
def f32E (x : Nat) : Nat := if f32Exp x = 0 then 1 else f32Exp x
def f32IsNaN (x : Nat) : Bool := f32Exp x = 255 ∧ f32Man x ≠ 0
def f32IsInf (x : Nat) : Bool := f32Exp x = 255 ∧ f32Man x = 0
def f32IsZero (x : Nat) : Bool := f32Exp x = 0 ∧ f32Man x = 0

/-- Scalar single multiplication `a * b` as performed by `mulss`. -/
def f32Mul (a b : Nat) : Nat :=
  let s := (f32Sign a + f32Sign b) % 2
  if f32IsNaN a then a ||| 2 ^ 22 else if f32IsNaN b then b ||| 2 ^ 22
  else if f32IsInf a ∨ f32IsInf b then
    (if f32IsZero a ∨ f32IsZero b then 0xFFC00000 else s * 2 ^ 31 + 0x7F800000)
  else roundPack32 s (f32Sig a * f32Sig b) (f32E a + f32E b + 700)

/-! ## Machine state and instruction semantics

The kernels are straight-line SSE2 code emitted through the assembler interface.  The model
keeps the eight XMM registers (128-bit values), the general registers named by the kernels'
parameters, the four status flags read by `jcc`, and the quadwords of the local stack frame.
`rax/rcx/rdx` are the 64-bit views of the parameters `eax/ecx/edx`; `r11` is the register
bound to the last temporary (`tmp4` in `fast_pow`). -/

inductive XReg
  | xmm0 | xmm1 | xmm2 | xmm3 | xmm4 | xmm5 | xmm6 | xmm7
  deriving DecidableEq, Repr

inductive GReg
  | eax | ecx | edx | tmp1 | tmp2 | tmp3 | tmp4
  deriving DecidableEq, Repr

/-- The constant tables referenced by the kernels. -/
inductive Tbl
  | HIGHSIGMASK | LOG2_E | HIGHMASK_Y | T_exp | e_coeff | coeff_h | HIGHMASK_LOG_X
  | HALFMASK | coeff_pow | L_tbl_pow | log2_pow | L_tbl | log2 | coeff
  | cv | shifter | mmask | bias | Tbl_addr | ALLONES | ebias | XMAX | XMIN | INF | ZERO | ONE_val
  deriving DecidableEq, Repr

/-- The labels bound in the kernels (each kernel uses a subset). -/
inductive Label
  | entry | start | B1_2 | B1_3 | B1_5
  | L_2TAG_PACKET_0_0_2 | L_2TAG_PACKET_1_0_2 | L_2TAG_PACKET_2_0_2 | L_2TAG_PACKET_3_0_2 | L_2TAG_PACKET_4_0_2 | L_2TAG_PACKET_5_0_2
  | L_2TAG_PACKET_6_0_2 | L_2TAG_PACKET_7_0_2 | L_2TAG_PACKET_8_0_2 | L_2TAG_PACKET_9_0_2 | L_2TAG_PACKET_10_0_2 | L_2TAG_PACKET_11_0_2
  | L_2TAG_PACKET_12_0_2 | L_2TAG_PACKET_13_0_2 | L_2TAG_PACKET_14_0_2 | L_2TAG_PACKET_15_0_2 | L_2TAG_PACKET_16_0_2 | L_2TAG_PACKET_17_0_2
  | L_2TAG_PACKET_18_0_2 | L_2TAG_PACKET_19_0_2 | L_2TAG_PACKET_20_0_2 | L_2TAG_PACKET_21_0_2 | L_2TAG_PACKET_22_0_2 | L_2TAG_PACKET_23_0_2
  | L_2TAG_PACKET_24_0_2 | L_2TAG_PACKET_25_0_2 | L_2TAG_PACKET_26_0_2 | L_2TAG_PACKET_27_0_2 | L_2TAG_PACKET_28_0_2 | L_2TAG_PACKET_29_0_2
  | L_2TAG_PACKET_30_0_2 | L_2TAG_PACKET_31_0_2 | L_2TAG_PACKET_32_0_2 | L_2TAG_PACKET_33_0_2 | L_2TAG_PACKET_34_0_2 | L_2TAG_PACKET_35_0_2
  | L_2TAG_PACKET_36_0_2 | L_2TAG_PACKET_37_0_2 | L_2TAG_PACKET_38_0_2 | L_2TAG_PACKET_39_0_2 | L_2TAG_PACKET_40_0_2 | L_2TAG_PACKET_41_0_2
  | L_2TAG_PACKET_42_0_2 | L_2TAG_PACKET_43_0_2 | L_2TAG_PACKET_44_0_2 | L_2TAG_PACKET_45_0_2 | L_2TAG_PACKET_46_0_2 | L_2TAG_PACKET_47_0_2
  | L_2TAG_PACKET_48_0_2 | L_2TAG_PACKET_49_0_2 | L_2TAG_PACKET_50_0_2 | L_2TAG_PACKET_51_0_2 | L_2TAG_PACKET_52_0_2 | L_2TAG_PACKET_53_0_2
  | L_2TAG_PACKET_54_0_2 | L_2TAG_PACKET_55_0_2 | L_2TAG_PACKET_56_0_2
  deriving DecidableEq, Repr

/-- A location of the machine state holding a number: an XMM register, a general register,
a quadword of the frame, or a status flag (read as 0 or 1). -/
inductive Loc
  | x (r : XReg) | g (r : GReg) | m (k : Nat) | cf | zf | sf | ovf
  deriving DecidableEq

structure Machine where
  /-- The XMM registers (128-bit values). -/
  xmm : XReg → Nat
  /-- The general registers (64-bit values). -/
  gpr : GReg → Nat
  cf : Bool
  zf : Bool
  sf : Bool
  ovf : Bool
  /-- Quadwords of the local stack frame, by byte offset from `rsp` (multiples of 8). -/
  frame : Nat → Nat
  /-- The labels execution has passed, most recent first. -/
  trace : List Label

namespace Machine

def xr (s : Machine) (r : XReg) : Nat := s.xmm r

def setx (s : Machine) (d : XReg) (v : Nat) : Machine :=
  { s with xmm := fun r => if r = d then v else s.xmm r }

def gr (s : Machine) (r : GReg) : Nat := s.gpr r

def setg (s : Machine) (d : GReg) (v : Nat) : Machine :=
  { s with gpr := fun r => if r = d then v else s.gpr r }

/-- Quadword of the stack frame at byte offset `k` (a multiple of 8). -/
def stk (s : Machine) (k : Nat) : Nat := s.frame k

def setstk (s : Machine) (k : Nat) (v : Nat) : Machine :=
  { s with frame := fun j => if j = k then v else s.frame j }

/-- Read `n` bytes of the stack frame at byte offset `k` (inside one quadword). -/
def stkBytes (s : Machine) (k n : Nat) : Nat :=
  s.stk (k / 8 * 8) / 2 ^ (8 * (k % 8)) % 2 ^ (8 * n)

def setFlags (s : Machine) (c z sg o : Bool) : Machine :=
  { s with cf := c, zf := z, sf := sg, ovf := o }

/-- Record that execution passes the label `l`. -/
def enter (s : Machine) (l : Label) : Machine := { s with trace := l :: s.trace }

/-- 32-bit view of a general register. -/
def g32 (s : Machine) (r : GReg) : Nat := s.gr r % 2 ^ 32

/-- Flags after a 32-bit logical operation with result `res`. -/
def flagsLogic (s : Machine) (res : Nat) : Machine :=
  s.setFlags false (decide (res = 0)) (decide (2 ^ 31 ≤ res)) false

/-- Flags after the 32-bit subtraction `a - b`. -/
def flagsSub (s : Machine) (a b : Nat) : Machine :=
  let res := (a + 2 ^ 32 - b) % 2 ^ 32
  s.setFlags (decide (a < b)) (decide (res = 0)) (decide (2 ^ 31 ≤ res))
    ((decide (2 ^ 31 ≤ a) != decide (2 ^ 31 ≤ b)) && (decide (2 ^ 31 ≤ res) != decide (2 ^ 31 ≤ a)))

/-- Flags after the 32-bit addition `a + b`. -/
def flagsAdd (s : Machine) (a b : Nat) : Machine :=
  let res := (a + b) % 2 ^ 32
  s.setFlags (decide (2 ^ 32 ≤ a + b)) (decide (res = 0)) (decide (2 ^ 31 ≤ res))
    ((decide (2 ^ 31 ≤ a) == decide (2 ^ 31 ≤ b)) && (decide (2 ^ 31 ≤ res) != decide (2 ^ 31 ≤ a)))

/-- Contents of a location. -/
def get (s : Machine) : Loc → Nat
  | .x r => s.xr r
  | .g r => s.gr r
  | .m k => s.stk k
  | .cf => s.cf.toNat
  | .zf => s.zf.toNat
  | .sf => s.sf.toNat
  | .ovf => s.ovf.toNat

end Machine

/-- The processor features the emitted code depends on: the reciprocal estimate returned by
`rcpps` for a single-precision bit pattern, and whether SSE3 is available. -/
structure Cpu where
  rcp : Nat → Nat
  supports_sse3 : Bool

/-! ### Lane helpers for 128-bit values -/

def lo64 (v : Nat) : Nat := v % 2 ^ 64
def hi64 (v : Nat) : Nat := v / 2 ^ 64 % 2 ^ 64
def mk128 (lo hi : Nat) : Nat := lo + 2 ^ 64 * hi
/-- Doubleword lane `i` of a 128-bit value. -/
def dw (v i : Nat) : Nat := v / 2 ^ (32 * i) % 2 ^ 32
def mkdw (d0 d1 d2 d3 : Nat) : Nat := d0 + 2 ^ 32 * d1 + 2 ^ 64 * d2 + 2 ^ 96 * d3
/-- Apply a 64-bit operation to both quadword lanes. -/
def map2q (f : Nat → Nat → Nat) (a b : Nat) : Nat :=
  mk128 (f (lo64 a) (lo64 b)) (f (hi64 a) (hi64 b))
/-- Apply a 64-bit operation to the low quadword lane, keeping the high lane of `a`. -/
def mapLow (f : Nat → Nat → Nat) (a b : Nat) : Nat :=
  mk128 (f (lo64 a) (lo64 b)) (hi64 a)

/-! ### Constant tables (LP64 variants), as arrays of 32-bit words -/

/-- Table `_HIGHSIGMASK` (source line 1355), 4 words. -/
def HIGHSIGMASK_data : List Nat := [
  0x00000000, 0xfffff800, 0x00000000, 0xfffff800]

/-- Table `_LOG2_E` (source line 1360), 4 words. -/
def LOG2_E_data : List Nat := [
  0x00000000, 0x3ff72000, 0x161bb241, 0xbf5dabe1]

/-- Table `_HIGHMASK_Y` (source line 1365), 4 words. -/
def HIGHMASK_Y_data : List Nat := [
  0x00000000, 0xfffffff8, 0x00000000, 0xffffffff]

/-- Table `_T_exp` (source line 1370), 1024 words. -/
def T_exp_data : List Nat := [
  0x00000000, 0x3ff00000, 0x00000000, 0x3b700000, 0xfa5abcbf, 0x3ff00b1a, 0xa7609f71, 0xbc84f6b2,
  0xa9fb3335, 0x3ff0163d, 0x9ab8cdb7, 0x3c9b6129, 0x143b0281, 0x3ff02168, 0x0fc54eb6, 0xbc82bf31,
  0x3e778061, 0x3ff02c9a, 0x535b085d, 0xbc719083, 0x2e11bbcc, 0x3ff037d4, 0xeeade11a, 0x3c656811,
  0xe86e7f85, 0x3ff04315, 0x1977c96e, 0xbc90a31c, 0x72f654b1, 0x3ff04e5f, 0x3aa0d08c, 0x3c84c379,
  0xd3158574, 0x3ff059b0, 0xa475b465, 0x3c8d73e2, 0x0e3c1f89, 0x3ff0650a, 0x5799c397, 0xbc95cb7b,
  0x29ddf6de, 0x3ff0706b, 0xe2b13c27, 0xbc8c91df, 0x2b72a836, 0x3ff07bd4, 0x54458700, 0x3c832334,
  0x18759bc8, 0x3ff08745, 0x4bb284ff, 0x3c6186be, 0xf66607e0, 0x3ff092bd, 0x800a3fd1, 0xbc968063,
  0xcac6f383, 0x3ff09e3e, 0x18316136, 0x3c914878, 0x9b1f3919, 0x3ff0a9c7, 0x873d1d38, 0x3c85d16c,
  0x6cf9890f, 0x3ff0b558, 0x4adc610b, 0x3c98a62e, 0x45e46c85, 0x3ff0c0f1, 0x06d21cef, 0x3c94f989,
  0x2b7247f7, 0x3ff0cc92, 0x16e24f71, 0x3c901edc, 0x23395dec, 0x3ff0d83b, 0xe43f316a, 0xbc9bc14d,
  0x32d3d1a2, 0x3ff0e3ec, 0x27c57b52, 0x3c403a17, 0x5fdfa9c5, 0x3ff0efa5, 0xbc54021b, 0xbc949db9,
  0xaffed31b, 0x3ff0fb66, 0xc44ebd7b, 0xbc6b9bed, 0x28d7233e, 0x3ff10730, 0x1692fdd5, 0x3c8d46eb,
  0xd0125b51, 0x3ff11301, 0x39449b3a, 0xbc96c510, 0xab5e2ab6, 0x3ff11edb, 0xf703fb72, 0xbc9ca454,
  0xc06c31cc, 0x3ff12abd, 0xb36ca5c7, 0xbc51b514, 0x14f204ab, 0x3ff136a8, 0xba48dcf0, 0xbc67108f,
  0xaea92de0, 0x3ff1429a, 0x9af1369e, 0xbc932fbf, 0x934f312e, 0x3ff14e95, 0x39bf44ab, 0xbc8b91e8,
  0xc8a58e51, 0x3ff15a98, 0xb9eeab0a, 0x3c82406a, 0x5471c3c2, 0x3ff166a4, 0x82ea1a32, 0x3c58f23b,
  0x3c7d517b, 0x3ff172b8, 0xb9d78a76, 0xbc819041, 0x8695bbc0, 0x3ff17ed4, 0xe2ac5a64, 0x3c709e3f,
  0x388c8dea, 0x3ff18af9, 0xd1970f6c, 0xbc911023, 0x58375d2f, 0x3ff19726, 0x85f17e08, 0x3c94aadd,
  0xeb6fcb75, 0x3ff1a35b, 0x7b4968e4, 0x3c8e5b4c, 0xf8138a1c, 0x3ff1af99, 0xa4b69280, 0x3c97bf85,
  0x84045cd4, 0x3ff1bbe0, 0x352ef607, 0xbc995386, 0x95281c6b, 0x3ff1c82f, 0x8010f8c9, 0x3c900977,
  0x3168b9aa, 0x3ff1d487, 0x00a2643c, 0x3c9e016e, 0x5eb44027, 0x3ff1e0e7, 0x088cb6de, 0xbc96fdd8,
  0x22fcd91d, 0x3ff1ed50, 0x027bb78c, 0xbc91df98, 0x8438ce4d, 0x3ff1f9c1, 0xa097af5c, 0xbc9bf524,
  0x88628cd6, 0x3ff2063b, 0x814a8495, 0x3c8dc775, 0x3578a819, 0x3ff212be, 0x2cfcaac9, 0x3c93592d,
  0x917ddc96, 0x3ff21f49, 0x9494a5ee, 0x3c82a97e, 0xa27912d1, 0x3ff22bdd, 0x5577d69f, 0x3c8d34fb,
  0x6e756238, 0x3ff2387a, 0xb6c70573, 0x3c99b07e, 0xfb82140a, 0x3ff2451f, 0x911ca996, 0x3c8acfcc,
  0x4fb2a63f, 0x3ff251ce, 0xbef4f4a4, 0x3c8ac155, 0x711ece75, 0x3ff25e85, 0x4ac31b2c, 0x3c93e1a2,
  0x65e27cdd, 0x3ff26b45, 0x9940e9d9, 0x3c82bd33, 0x341ddf29, 0x3ff2780e, 0x05f9e76c, 0x3c9e067c,
  0xe1f56381, 0x3ff284df, 0x8c3f0d7e, 0xbc9a4c3a, 0x7591bb70, 0x3ff291ba, 0x28401cbd, 0xbc82cc72,
  0xf51fdee1, 0x3ff29e9d, 0xafad1255, 0x3c8612e8, 0x66d10f13, 0x3ff2ab8a, 0x191690a7, 0xbc995743,
  0xd0dad990, 0x3ff2b87f, 0xd6381aa4, 0xbc410adc, 0x39771b2f, 0x3ff2c57e, 0xa6eb5124, 0xbc950145,
  0xa6e4030b, 0x3ff2d285, 0x54db41d5, 0x3c900247, 0x1f641589, 0x3ff2df96, 0xfbbce198, 0x3c9d16cf,
  0xa93e2f56, 0x3ff2ecaf, 0x45d52383, 0x3c71ca0f, 0x4abd886b, 0x3ff2f9d2, 0x532bda93, 0xbc653c55,
  0x0a31b715, 0x3ff306fe, 0xd23182e4, 0x3c86f46a, 0xedeeb2fd, 0x3ff31432, 0xf3f3fcd1, 0x3c8959a3,
  0xfc4cd831, 0x3ff32170, 0x8e18047c, 0x3c8a9ce7, 0x3ba8ea32, 0x3ff32eb8, 0x3cb4f318, 0xbc9c45e8,
  0xb26416ff, 0x3ff33c08, 0x843659a6, 0x3c932721, 0x66e3fa2d, 0x3ff34962, 0x930881a4, 0xbc835a75,
  0x5f929ff1, 0x3ff356c5, 0x5c4e4628, 0xbc8b5cee, 0xa2de883b, 0x3ff36431, 0xa06cb85e, 0xbc8c3144,
  0x373aa9cb, 0x3ff371a7, 0xbf42eae2, 0xbc963aea, 0x231e754a, 0x3ff37f26, 0x9eceb23c, 0xbc99f5ca,
  0x6d05d866, 0x3ff38cae, 0x3c9904bd, 0xbc9e958d, 0x1b7140ef, 0x3ff39a40, 0xfc8e2934, 0xbc99a9a5,
  0x34e59ff7, 0x3ff3a7db, 0xd661f5e3, 0xbc75e436, 0xbfec6cf4, 0x3ff3b57f, 0xe26fff18, 0x3c954c66,
  0xc313a8e5, 0x3ff3c32d, 0x375d29c3, 0xbc9efff8, 0x44ede173, 0x3ff3d0e5, 0x8c284c71, 0x3c7fe8d0,
  0x4c123422, 0x3ff3dea6, 0x11f09ebc, 0x3c8ada09, 0xdf1c5175, 0x3ff3ec70, 0x7b8c9bca, 0xbc8af663,
  0x04ac801c, 0x3ff3fa45, 0xf956f9f3, 0xbc97d023, 0xc367a024, 0x3ff40822, 0xb6f4d048, 0x3c8bddf8,
  0x21f72e2a, 0x3ff4160a, 0x1c309278, 0xbc5ef369, 0x2709468a, 0x3ff423fb, 0xc0b314dd, 0xbc98462d,
  0xd950a897, 0x3ff431f5, 0xe35f7999, 0xbc81c7dd, 0x3f84b9d4, 0x3ff43ffa, 0x9704c003, 0x3c8880be,
  0x6061892d, 0x3ff44e08, 0x04ef80d0, 0x3c489b7a, 0x42a7d232, 0x3ff45c20, 0x82fb1f8e, 0xbc686419,
  0xed1d0057, 0x3ff46a41, 0xd1648a76, 0x3c9c944b, 0x668b3237, 0x3ff4786d, 0xed445733, 0xbc9c20f0,
  0xb5c13cd0, 0x3ff486a2, 0xb69062f0, 0x3c73c1a3, 0xe192aed2, 0x3ff494e1, 0x5e499ea0, 0xbc83b289,
  0xf0d7d3de, 0x3ff4a32a, 0xf3d1be56, 0x3c99cb62, 0xea6db7d7, 0x3ff4b17d, 0x7f2897f0, 0xbc8125b8,
  0xd5362a27, 0x3ff4bfda, 0xafec42e2, 0x3c7d4397, 0xb817c114, 0x3ff4ce41, 0x690abd5d, 0x3c905e29,
  0x99fddd0d, 0x3ff4dcb2, 0xbc6a7833, 0x3c98ecdb, 0x81d8abff, 0x3ff4eb2d, 0x2e5d7a52, 0xbc95257d,
  0x769d2ca7, 0x3ff4f9b2, 0xd25957e3, 0xbc94b309, 0x7f4531ee, 0x3ff50841, 0x49b7465f, 0x3c7a249b,
  0xa2cf6642, 0x3ff516da, 0x69bd93ef, 0xbc8f7685, 0xe83f4eef, 0x3ff5257d, 0x43efef71, 0xbc7c998d,
  0x569d4f82, 0x3ff5342b, 0x1db13cad, 0xbc807abe, 0xf4f6ad27, 0x3ff542e2, 0x192d5f7e, 0x3c87926d,
  0xca5d920f, 0x3ff551a4, 0xefede59b, 0xbc8d689c, 0xdde910d2, 0x3ff56070, 0x168eebf0, 0xbc90fb6e,
  0x36b527da, 0x3ff56f47, 0x011d93ad, 0x3c99bb2c, 0xdbe2c4cf, 0x3ff57e27, 0x8a57b9c4, 0xbc90b98c,
  0xd497c7fd, 0x3ff58d12, 0x5b9a1de8, 0x3c8295e1, 0x27ff07cc, 0x3ff59c08, 0xe467e60f, 0xbc97e2ce,
  0xdd485429, 0x3ff5ab07, 0x054647ad, 0x3c96324c, 0xfba87a03, 0x3ff5ba11, 0x4c233e1a, 0xbc9b77a1,
  0x8a5946b7, 0x3ff5c926, 0x816986a2, 0x3c3c4b1b, 0x90998b93, 0x3ff5d845, 0xa8b45643, 0xbc9cd6a7,
  0x15ad2148, 0x3ff5e76f, 0x3080e65e, 0x3c9ba6f9, 0x20dceb71, 0x3ff5f6a3, 0xe3cdcf92, 0xbc89eadd,
  0xb976dc09, 0x3ff605e1, 0x9b56de47, 0xbc93e242, 0xe6cdf6f4, 0x3ff6152a, 0x4ab84c27, 0x3c9e4b3e,
  0xb03a5585, 0x3ff6247e, 0x7e40b497, 0xbc9383c1, 0x1d1929fd, 0x3ff633dd, 0xbeb964e5, 0x3c984710,
  0x34ccc320, 0x3ff64346, 0x759d8933, 0xbc8c483c, 0xfebc8fb7, 0x3ff652b9, 0xc9a73e09, 0xbc9ae3d5,
  0x82552225, 0x3ff66238, 0x87591c34, 0xbc9bb609, 0xc70833f6, 0x3ff671c1, 0x586c6134, 0xbc8e8732,
  0xd44ca973, 0x3ff68155, 0x44f73e65, 0x3c6038ae, 0xb19e9538, 0x3ff690f4, 0x9aeb445d, 0x3c8804bd,
  0x667f3bcd, 0x3ff6a09e, 0x13b26456, 0xbc9bdd34, 0xfa75173e, 0x3ff6b052, 0x2c9a9d0e, 0x3c7a38f5,
  0x750bdabf, 0x3ff6c012, 0x67ff0b0d, 0xbc728956, 0xddd47645, 0x3ff6cfdc, 0xb6f17309, 0x3c9c7aa9,
  0x3c651a2f, 0x3ff6dfb2, 0x683c88ab, 0xbc6bbe3a, 0x98593ae5, 0x3ff6ef92, 0x9e1ac8b2, 0xbc90b974,
  0xf9519484, 0x3ff6ff7d, 0x25860ef6, 0xbc883c0f, 0x66f42e87, 0x3ff70f74, 0xd45aa65f, 0x3c59d644,
  0xe8ec5f74, 0x3ff71f75, 0x86887a99, 0xbc816e47, 0x86ead08a, 0x3ff72f82, 0x2cd62c72, 0xbc920aa0,
  0x48a58174, 0x3ff73f9a, 0x6c65d53c, 0xbc90a8d9, 0x35d7cbfd, 0x3ff74fbd, 0x618a6e1c, 0x3c9047fd,
  0x564267c9, 0x3ff75feb, 0x57316dd3, 0xbc902459, 0xb1ab6e09, 0x3ff77024, 0x169147f8, 0x3c9b7877,
  0x4fde5d3f, 0x3ff78069, 0x0a02162d, 0x3c9866b8, 0x38ac1cf6, 0x3ff790b9, 0x62aadd3e, 0x3c9349a8,
  0x73eb0187, 0x3ff7a114, 0xee04992f, 0xbc841577, 0x0976cfdb, 0x3ff7b17b, 0x8468dc88, 0xbc9bebb5,
  0x0130c132, 0x3ff7c1ed, 0xd1164dd6, 0x3c9f124c, 0x62ff86f0, 0x3ff7d26a, 0xfb72b8b4, 0x3c91bddb,
  0x36cf4e62, 0x3ff7e2f3, 0xba15797e, 0x3c705d02, 0x8491c491, 0x3ff7f387, 0xcf9311ae, 0xbc807f11,
  0x543e1a12, 0x3ff80427, 0x626d972b, 0xbc927c86, 0xadd106d9, 0x3ff814d2, 0x0d151d4d, 0x3c946437,
  0x994cce13, 0x3ff82589, 0xd41532d8, 0xbc9d4c1d, 0x1eb941f7, 0x3ff8364c, 0x31df2bd5, 0x3c999b9a,
  0x4623c7ad, 0x3ff8471a, 0xa341cdfb, 0xbc88d684, 0x179f5b21, 0x3ff857f4, 0xf8b216d0, 0xbc5ba748,
  0x9b4492ed, 0x3ff868d9, 0x9bd4f6ba, 0xbc9fc6f8, 0xd931a436, 0x3ff879ca, 0xd2db47bd, 0x3c85d2d7,
  0xd98a6699, 0x3ff88ac7, 0xf37cb53a, 0x3c9994c2, 0xa478580f, 0x3ff89bd0, 0x4475202a, 0x3c9d5395,
  0x422aa0db, 0x3ff8ace5, 0x56864b27, 0x3c96e9f1, 0xbad61778, 0x3ff8be05, 0xfc43446e, 0x3c9ecb5e,
  0x16b5448c, 0x3ff8cf32, 0x32e9e3aa, 0xbc70d55e, 0x5e0866d9, 0x3ff8e06a, 0x6fc9b2e6, 0xbc97114a,
  0x99157736, 0x3ff8f1ae, 0xa2e3976c, 0x3c85cc13, 0xd0282c8a, 0x3ff902fe, 0x85fe3fd2, 0x3c9592ca,
  0x0b91ffc6, 0x3ff9145b, 0x2e582524, 0xbc9dd679, 0x53aa2fe2, 0x3ff925c3, 0xa639db7f, 0xbc83455f,
  0xb0cdc5e5, 0x3ff93737, 0x81b57ebc, 0xbc675fc7, 0x2b5f98e5, 0x3ff948b8, 0x797d2d99, 0xbc8dc3d6,
  0xcbc8520f, 0x3ff95a44, 0x96a5f039, 0xbc764b7c, 0x9a7670b3, 0x3ff96bdd, 0x7f19c896, 0xbc5ba596,
  0x9fde4e50, 0x3ff97d82, 0x7c1b85d1, 0xbc9d185b, 0xe47a22a2, 0x3ff98f33, 0xa24c78ec, 0x3c7cabda,
  0x70ca07ba, 0x3ff9a0f1, 0x91cee632, 0xbc9173bd, 0x4d53fe0d, 0x3ff9b2bb, 0x4df6d518, 0xbc9dd84e,
  0x82a3f090, 0x3ff9c491, 0xb071f2be, 0x3c7c7c46, 0x194bb8d5, 0x3ff9d674, 0xa3dd8233, 0xbc9516be,
  0x19e32323, 0x3ff9e863, 0x78e64c6e, 0x3c7824ca, 0x8d07f29e, 0x3ff9fa5e, 0xaaf1face, 0xbc84a9ce,
  0x7b5de565, 0x3ffa0c66, 0x5d1cd533, 0xbc935949, 0xed8eb8bb, 0x3ffa1e7a, 0xee8be70e, 0x3c9c6618,
  0xec4a2d33, 0x3ffa309b, 0x7ddc36ab, 0x3c96305c, 0x80460ad8, 0x3ffa42c9, 0x589fb120, 0xbc9aa780,
  0xb23e255d, 0x3ffa5503, 0xdb8d41e1, 0xbc9d2f6e, 0x8af46052, 0x3ffa674a, 0x30670366, 0x3c650f56,
  0x1330b358, 0x3ffa799e, 0xcac563c7, 0x3c9bcb7e, 0x53c12e59, 0x3ffa8bfe, 0xb2ba15a9, 0xbc94f867,
  0x5579fdbf, 0x3ffa9e6b, 0x0ef7fd31, 0x3c90fac9, 0x21356eba, 0x3ffab0e5, 0xdae94545, 0x3c889c31,
  0xbfd3f37a, 0x3ffac36b, 0xcae76cd0, 0xbc8f9234, 0x3a3c2774, 0x3ffad5ff, 0xb6b1b8e5, 0x3c97ef3b,
  0x995ad3ad, 0x3ffae89f, 0x345dcc81, 0x3c97a1cd, 0xe622f2ff, 0x3ffafb4c, 0x0f315ecd, 0xbc94b2fc,
  0x298db666, 0x3ffb0e07, 0x4c80e425, 0xbc9bdef5, 0x6c9a8952, 0x3ffb20ce, 0x4a0756cc, 0x3c94dd02,
  0xb84f15fb, 0x3ffb33a2, 0x3084d708, 0xbc62805e, 0x15b749b1, 0x3ffb4684, 0xe9df7c90, 0xbc7f763d,
  0x8de5593a, 0x3ffb5972, 0xbbba6de3, 0xbc9c71df, 0x29f1c52a, 0x3ffb6c6e, 0x52883f6e, 0x3c92a8f3,
  0xf2fb5e47, 0x3ffb7f76, 0x7e54ac3b, 0xbc75584f, 0xf22749e4, 0x3ffb928c, 0x54cb65c6, 0xbc9b7216,
  0x30a1064a, 0x3ffba5b0, 0x0e54292e, 0xbc9efcd3, 0xb79a6f1f, 0x3ffbb8e0, 0xc9696205, 0xbc3f52d1,
  0x904bc1d2, 0x3ffbcc1e, 0x7a2d9e84, 0x3c823dd0, 0xc3f3a207, 0x3ffbdf69, 0x60ea5b53, 0xbc3c2623,
  0x5bd71e09, 0x3ffbf2c2, 0x3f6b9c73, 0xbc9efdca, 0x6141b33d, 0x3ffc0628, 0xa1fbca34, 0xbc8d8a5a,
  0xdd85529c, 0x3ffc199b, 0x895048dd, 0x3c811065, 0xd9fa652c, 0x3ffc2d1c, 0x17c8a5d7, 0xbc96e516,
  0x5fffd07a, 0x3ffc40ab, 0xe083c60a, 0x3c9b4537, 0x78fafb22, 0x3ffc5447, 0x2493b5af, 0x3c912f07,
  0x2e57d14b, 0x3ffc67f1, 0xff483cad, 0x3c92884d, 0x8988c933, 0x3ffc7ba8, 0xbe255559, 0xbc8e76bb,
  0x9406e7b5, 0x3ffc8f6d, 0x48805c44, 0x3c71acbc, 0x5751c4db, 0x3ffca340, 0xd10d08f5, 0xbc87f2be,
  0xdcef9069, 0x3ffcb720, 0xd1e949db, 0x3c7503cb, 0x2e6d1675, 0x3ffccb0f, 0x86009092, 0xbc7d220f,
  0x555dc3fa, 0x3ffcdf0b, 0x53829d72, 0xbc8dd83b, 0x5b5bab74, 0x3ffcf315, 0xb86dff57, 0xbc9a08e9,
  0x4a07897c, 0x3ffd072d, 0x43797a9c, 0xbc9cbc37, 0x2b08c968, 0x3ffd1b53, 0x219a36ee, 0x3c955636,
  0x080d89f2, 0x3ffd2f87, 0x719d8578, 0xbc9d487b, 0xeacaa1d6, 0x3ffd43c8, 0xbf5a1614, 0x3c93db53,
  0xdcfba487, 0x3ffd5818, 0xd75b3707, 0x3c82ed02, 0xe862e6d3, 0x3ffd6c76, 0x4a8165a0, 0x3c5fe87a,
  0x16c98398, 0x3ffd80e3, 0x8beddfe8, 0xbc911ec1, 0x71ff6075, 0x3ffd955d, 0xbb9af6be, 0x3c9a052d,
  0x03db3285, 0x3ffda9e6, 0x696db532, 0x3c9c2300, 0xd63a8315, 0x3ffdbe7c, 0x926b8be4, 0xbc9b76f1,
  0xf301b460, 0x3ffdd321, 0x78f018c3, 0x3c92da57, 0x641c0658, 0x3ffde7d5, 0x8e79ba8f, 0xbc9ca552,
  0x337b9b5f, 0x3ffdfc97, 0x4f184b5c, 0xbc91a5cd, 0x6b197d17, 0x3ffe1167, 0xbd5c7f44, 0xbc72b529,
  0x14f5a129, 0x3ffe2646, 0x817a1496, 0xbc97b627, 0x3b16ee12, 0x3ffe3b33, 0x31fdc68b, 0xbc99f4a4,
  0xe78b3ff6, 0x3ffe502e, 0x80a9cc8f, 0x3c839e89, 0x24676d76, 0x3ffe6539, 0x7522b735, 0xbc863ff8,
  0xfbc74c83, 0x3ffe7a51, 0xca0c8de2, 0x3c92d522, 0x77cdb740, 0x3ffe8f79, 0x80b054b1, 0xbc910894,
  0xa2a490da, 0x3ffea4af, 0x179c2893, 0xbc9e9c23, 0x867cca6e, 0x3ffeb9f4, 0x2293e4f2, 0x3c94832f,
  0x2d8e67f1, 0x3ffecf48, 0xb411ad8c, 0xbc9c93f3, 0xa2188510, 0x3ffee4aa, 0xa487568d, 0x3c91c68d,
  0xee615a27, 0x3ffefa1b, 0x86a4b6b0, 0x3c9dc7f4, 0x1cb6412a, 0x3fff0f9c, 0x65181d45, 0xbc932200,
  0x376bba97, 0x3fff252b, 0xbf0d8e43, 0x3c93a1a5, 0x48dd7274, 0x3fff3ac9, 0x3ed837de, 0xbc795a5a,
  0x5b6e4540, 0x3fff5076, 0x2dd8a18b, 0x3c99d3e1, 0x798844f8, 0x3fff6632, 0x3539343e, 0x3c9fa37b,
  0xad9cbe14, 0x3fff7bfd, 0xd006350a, 0xbc9dbb12, 0x02243c89, 0x3fff91d8, 0xa779f689, 0xbc612ea8,
  0x819e90d8, 0x3fffa7c1, 0xf3a5931e, 0x3c874853, 0x3692d514, 0x3fffbdba, 0x15098eb6, 0xbc796773,
  0x2b8f71f1, 0x3fffd3c2, 0x966579e7, 0x3c62eb74, 0x6b2a23d9, 0x3fffe9d9, 0x7442fde3, 0x3c74a603]

/-- Table `_e_coeff` (source line 1579), 12 words. -/
def e_coeff_data : List Nat := [
  0xe78a6731, 0x3f55d87f, 0xd704a0c0, 0x3fac6b08, 0x6fba4e77, 0x3f83b2ab, 0xff82c58f, 0x3fcebfbd,
  0xfefa39ef, 0x3fe62e42, 0x00000000, 0x00000000]

/-- Table `_coeff_h` (source line 1586), 4 words. -/
def coeff_h_data : List Nat := [
  0x00000000, 0xbfd61a00, 0x00000000, 0xbf5dabe1]

/-- Table `_HIGHMASK_LOG_X` (source line 1591), 4 words. -/
def HIGHMASK_LOG_X_data : List Nat := [
  0xf8000000, 0xffffffff, 0x00000000, 0xfffff800]

/-- Table `_HALFMASK` (source line 1596), 4 words. -/
def HALFMASK_data : List Nat := [
  0xf8000000, 0xffffffff, 0xf8000000, 0xffffffff]

/-- Table `_coeff_pow` (source line 1601), 24 words. -/
def coeff_pow_data : List Nat := [
  0x6dc96112, 0xbf836578, 0xee241472, 0xbf9b0301, 0x9f95985a, 0xbfb528db, 0xb3841d2a, 0xbfd619b6,
  0x518775e3, 0x3f9004f2, 0xac8349bb, 0x3fa76c9b, 0x486ececc, 0x3fc4635e, 0x161bb241, 0xbf5dabe1,
  0x9f95985a, 0xbfb528db, 0xf8b5787d, 0x3ef2531e, 0x486ececb, 0x3fc4635e, 0x412055cc, 0xbdd61bb2]

/-- Table `_L_tbl_pow` (source line 1610), 2052 words. -/
def L_tbl_pow_data : List Nat := [
  0x00000000, 0x3ff00000, 0x00000000, 0x00000000, 0x20000000, 0x3feff00a, 0x96621f95, 0x3e5b1856,
  0xe0000000, 0x3fefe019, 0xe5916f9e, 0xbe325278, 0x00000000, 0x3fefd02f, 0x859a1062, 0x3e595fb7,
  0xc0000000, 0x3fefc049, 0xb245f18f, 0xbe529c38, 0xe0000000, 0x3fefb069, 0xad2880a7, 0xbe501230,
  0x60000000, 0x3fefa08f, 0xc8e72420, 0x3e597bd1, 0x80000000, 0x3fef90ba, 0xc30c4500, 0xbe5d6c75,
  0xe0000000, 0x3fef80ea, 0x02c63f43, 0x3e2e1318, 0xc0000000, 0x3fef7120, 0xb3d4cccc, 0xbe44c52a,
  0x00000000, 0x3fef615c, 0xdbd91397, 0xbe4e7d6c, 0xa0000000, 0x3fef519c, 0x65c5cd68, 0xbe522dc8,
  0xa0000000, 0x3fef41e2, 0x46d1306c, 0xbe5a840e, 0xe0000000, 0x3fef322d, 0xd2980e94, 0x3e5071af,
  0xa0000000, 0x3fef227e, 0x773abade, 0xbe5891e5, 0xa0000000, 0x3fef12d4, 0xdc6bf46b, 0xbe5cccbe,
  0xe0000000, 0x3fef032f, 0xbc7247fa, 0xbe2bab83, 0x80000000, 0x3feef390, 0xbcaa1e46, 0xbe53bb3b,
  0x60000000, 0x3feee3f6, 0x5f6c682d, 0xbe54c619, 0x80000000, 0x3feed461, 0x5141e368, 0xbe4b6d86,
  0xe0000000, 0x3feec4d1, 0xec678f76, 0xbe369af6, 0x80000000, 0x3feeb547, 0x41301f55, 0xbe2d4312,
  0x60000000, 0x3feea5c2, 0x676da6bd, 0xbe4d8dd0, 0x60000000, 0x3fee9642, 0x57a891c4, 0x3e51f991,
  0xa0000000, 0x3fee86c7, 0xe4eb491e, 0x3e579bf9, 0x20000000, 0x3fee7752, 0xfddc4a2c, 0xbe3356e6,
  0xc0000000, 0x3fee67e1, 0xd75b5bf1, 0xbe449531, 0x80000000, 0x3fee5876, 0xbd423b8e, 0x3df54fe4,
  0x60000000, 0x3fee4910, 0x330e51b9, 0x3e54289c, 0x80000000, 0x3fee39af, 0x8651a95f, 0xbe55aad6,
  0xa0000000, 0x3fee2a53, 0x5e98c708, 0xbe2fc4a9, 0xe0000000, 0x3fee1afc, 0x0989328d, 0x3e23958c,
  0x40000000, 0x3fee0bab, 0xee642abd, 0xbe425dd8, 0xa0000000, 0x3fedfc5e, 0xc394d236, 0x3e526362,
  0x20000000, 0x3feded17, 0xe104aa8e, 0x3e4ce247, 0xc0000000, 0x3fedddd4, 0x265a9be4, 0xbe5bb77a,
  0x40000000, 0x3fedce97, 0x0ecac52f, 0x3e4a7cb1, 0xe0000000, 0x3fedbf5e, 0x124cb3b8, 0x3e257024,
  0x80000000, 0x3fedb02b, 0xe6d4febe, 0xbe2033ee, 0x20000000, 0x3feda0fd, 0x39cca00e, 0xbe3ddabc,
  0xc0000000, 0x3fed91d3, 0xef8a552a, 0xbe543390, 0x40000000, 0x3fed82af, 0xb8e85204, 0x3e513850,
  0xe0000000, 0x3fed738f, 0x3d59fe08, 0xbe5db728, 0x40000000, 0x3fed6475, 0x3aa7ead1, 0x3e58804b,
  0xc0000000, 0x3fed555f, 0xf8a35ba9, 0xbe5298b0, 0x00000000, 0x3fed464f, 0x9a88dd15, 0x3e5a8cdb,
  0x40000000, 0x3fed3743, 0xb0b0a190, 0x3e598635, 0x80000000, 0x3fed283c, 0xe2113295, 0xbe5c1119,
  0x80000000, 0x3fed193a, 0xafbf1728, 0xbe492e9c, 0x60000000, 0x3fed0a3d, 0xe4a4ccf3, 0x3e19b90e,
  0x20000000, 0x3fecfb45, 0xba3cbeb8, 0x3e406b50, 0xc0000000, 0x3fecec51, 0x110f7ddd, 0x3e0d6806,
  0x40000000, 0x3fecdd63, 0x7dd7d508, 0xbe5a8943, 0x80000000, 0x3fecce79, 0x9b60f271, 0xbe50676a,
  0x80000000, 0x3fecbf94, 0x0b9ad660, 0x3e59174f, 0x60000000, 0x3fecb0b4, 0x00823d9c, 0x3e5bbf72,
  0x20000000, 0x3feca1d9, 0x38a6ec89, 0xbe4d38f9, 0x80000000, 0x3fec9302, 0x3a0b7d8e, 0x3e53dbfd,
  0xc0000000, 0x3fec8430, 0xc6826b34, 0xbe27c5c9, 0xc0000000, 0x3fec7563, 0x0c706381, 0xbe593653,
  0x60000000, 0x3fec669b, 0x7df34ec7, 0x3e461ab5, 0xe0000000, 0x3fec57d7, 0x40e5e7e8, 0xbe5c3dae,
  0x00000000, 0x3fec4919, 0x5602770f, 0xbe55219d, 0xc0000000, 0x3fec3a5e, 0xec7911eb, 0x3e5a5d25,
  0x60000000, 0x3fec2ba9, 0xb39ea225, 0xbe53c00b, 0x80000000, 0x3fec1cf8, 0x967a212e, 0x3e5a8ddf,
  0x60000000, 0x3fec0e4c, 0x580798bd, 0x3e5f53ab, 0x00000000, 0x3febffa5, 0xb8282df6, 0xbe46b874,
  0x20000000, 0x3febf102, 0xe33a6729, 0x3e54963f, 0x00000000, 0x3febe264, 0x3b53e88a, 0xbe3adce1,
  0x60000000, 0x3febd3ca, 0xc2585084, 0x3e5cde9f, 0x80000000, 0x3febc535, 0xa335c5ee, 0xbe39fd9c,
  0x20000000, 0x3febb6a5, 0x7325b04d, 0x3e42ba15, 0x60000000, 0x3feba819, 0x1564540f, 0x3e3a9f35,
  0x40000000, 0x3feb9992, 0x83fff592, 0xbe5465ce, 0xa0000000, 0x3feb8b0f, 0xb9da63d3, 0xbe4b1a0a,
  0x80000000, 0x3feb7c91, 0x6d6f1ea4, 0x3e557657, 0x00000000, 0x3feb6e18, 0x5e80a1bf, 0x3e4ddbb6,
  0x00000000, 0x3feb5fa3, 0x1c9eacb5, 0x3e592877, 0xa0000000, 0x3feb5132, 0x6d40beb3, 0xbe51858c,
  0xa0000000, 0x3feb42c6, 0xd740c67b, 0x3e427ad2, 0x40000000, 0x3feb345f, 0xa3e0ccee, 0xbe5c2fc4,
  0x40000000, 0x3feb25fc, 0x8e752b50, 0xbe3da3c2, 0xc0000000, 0x3feb179d, 0xa892e7de, 0x3e1fb481,
  0xc0000000, 0x3feb0943, 0x21ed71e9, 0xbe365206, 0x20000000, 0x3feafaee, 0x0e1380a3, 0x3e5c5b7b,
  0x20000000, 0x3feaec9d, 0x3c3d640e, 0xbe5dbbd0, 0x60000000, 0x3feade50, 0x8f97a715, 0x3e3a8ec5,
  0x20000000, 0x3fead008, 0x23ab2839, 0x3e2fe98a, 0x40000000, 0x3feac1c4, 0xf4bbd50f, 0x3e54d8f6,
  0xe0000000, 0x3feab384, 0x14757c4d, 0xbe48774c, 0xc0000000, 0x3feaa549, 0x7c7b0eea, 0x3e5b51bb,
  0x20000000, 0x3fea9713, 0xf56f7013, 0x3e386200, 0xe0000000, 0x3fea88e0, 0xbe428ebe, 0xbe514af5,
  0xe0000000, 0x3fea7ab2, 0x8d0e4496, 0x3e4f9165, 0x60000000, 0x3fea6c89, 0xdbacc5d5, 0xbe5c063b,
  0x20000000, 0x3fea5e64, 0x3f19d970, 0xbe5a0c8c, 0x20000000, 0x3fea5043, 0x09ea3e6b, 0x3e5065dc,
  0x80000000, 0x3fea4226, 0x78df246c, 0x3e5e05f6, 0x40000000, 0x3fea340e, 0x4057d4a0, 0x3e431b2b,
  0x40000000, 0x3fea25fa, 0x82867bb5, 0x3e4b76be, 0xa0000000, 0x3fea17ea, 0x9436f40a, 0xbe5aad39,
  0x20000000, 0x3fea09df, 0x4b5253b3, 0x3e46380b, 0x00000000, 0x3fe9fbd8, 0x8fc52466, 0xbe386f9b,
  0x20000000, 0x3fe9edd5, 0x22d3f344, 0xbe538347, 0x60000000, 0x3fe9dfd6, 0x1ac33522, 0x3e5dbc53,
  0x00000000, 0x3fe9d1dc, 0xeabdff1d, 0x3e40fc0c, 0xe0000000, 0x3fe9c3e5, 0xafd30e73, 0xbe585e63,
  0xe0000000, 0x3fe9b5f3, 0xa52f226a, 0xbe43e8f9, 0x20000000, 0x3fe9a806, 0xecb8698d, 0xbe515b36,
  0x80000000, 0x3fe99a1c, 0xf2b4e89d, 0x3e48b62b, 0x20000000, 0x3fe98c37, 0x7c9a88fb, 0x3e44414c,
  0x00000000, 0x3fe97e56, 0xda015741, 0xbe5d13ba, 0xe0000000, 0x3fe97078, 0x5fdace06, 0x3e51b947,
  0x00000000, 0x3fe962a0, 0x956ca094, 0x3e518785, 0x40000000, 0x3fe954cb, 0x01164c1d, 0x3e5d5b57,
  0xc0000000, 0x3fe946fa, 0xe63b3767, 0xbe4f84e7, 0x40000000, 0x3fe9392e, 0xe57cc2a9, 0x3e34eda3,
  0xe0000000, 0x3fe92b65, 0x8c75b544, 0x3e5766a0, 0xc0000000, 0x3fe91da1, 0x37d1d087, 0xbe5e2ab1,
  0x80000000, 0x3fe90fe1, 0xa953dc20, 0x3e5fa1f3, 0x80000000, 0x3fe90225, 0xdbd3f369, 0x3e47d6db,
  0xa0000000, 0x3fe8f46d, 0x1c9be989, 0xbe5e2b0a, 0xa0000000, 0x3fe8e6b9, 0x3c93d76a, 0x3e5c8618,
  0xe0000000, 0x3fe8d909, 0x2182fc9a, 0xbe41aa9e, 0x20000000, 0x3fe8cb5e, 0xe6b3539d, 0xbe530d19,
  0x60000000, 0x3fe8bdb6, 0x49e58cc3, 0xbe3bb374, 0xa0000000, 0x3fe8b012, 0xa7cfeb8f, 0x3e56c412,
  0x00000000, 0x3fe8a273, 0x8d52bc19, 0x3e1429b8, 0x60000000, 0x3fe894d7, 0x4dc32c6c, 0xbe48604c,
  0xc0000000, 0x3fe8873f, 0x0c868e56, 0xbe564ee5, 0x00000000, 0x3fe879ac, 0x56aee828, 0x3e5e2fd8,
  0x60000000, 0x3fe86c1c, 0x7ceab8ec, 0x3e493365, 0xc0000000, 0x3fe85e90, 0x78d4dadc, 0xbe4f7f25,
  0x00000000, 0x3fe85109, 0x0ccd8280, 0x3e31e7a2, 0x40000000, 0x3fe84385, 0x34ba4e15, 0x3e328077,
  0x80000000, 0x3fe83605, 0xa670975a, 0xbe53eee5, 0xa0000000, 0x3fe82889, 0xf61b77b2, 0xbe43a20a,
  0xa0000000, 0x3fe81b11, 0x13e6643b, 0x3e5e5fe5, 0xc0000000, 0x3fe80d9d, 0x82cc94e8, 0xbe5ff1f9,
  0xa0000000, 0x3fe8002d, 0x8a0c9c5d, 0xbe42b0e7, 0x60000000, 0x3fe7f2c1, 0x22a16f01, 0x3e5d9ea0,
  0x20000000, 0x3fe7e559, 0xc38cd451, 0x3e506963, 0xc0000000, 0x3fe7d7f4, 0x9902bc71, 0x3e4503d7,
  0x40000000, 0x3fe7ca94, 0xdef2a3c0, 0x3e3d98ed, 0xa0000000, 0x3fe7bd37, 0xed49abb0, 0x3e24c1ff,
  0xe0000000, 0x3fe7afde, 0xe3b0be70, 0xbe40c467, 0x00000000, 0x3fe7a28a, 0xaf9f193c, 0xbe5dff6c,
  0xe0000000, 0x3fe79538, 0xb74cf6b6, 0xbe258ed0, 0xa0000000, 0x3fe787eb, 0x1d9127c7, 0x3e345fb0,
  0x40000000, 0x3fe77aa2, 0x1028c21d, 0xbe4619bd, 0xa0000000, 0x3fe76d5c, 0x7cb0b5e4, 0x3e40f1a2,
  0xe0000000, 0x3fe7601a, 0x2b1bc4ad, 0xbe32e8bb, 0xe0000000, 0x3fe752dc, 0x6839f64e, 0x3e41f57b,
  0xc0000000, 0x3fe745a2, 0xc4121f7e, 0xbe52c40a, 0x60000000, 0x3fe7386c, 0xd6852d72, 0xbe5c4e6b,
  0xc0000000, 0x3fe72b39, 0x91d690f7, 0xbe57f88f, 0xe0000000, 0x3fe71e0a, 0x627a2159, 0xbe4425d5,
  0xc0000000, 0x3fe710df, 0x50a54033, 0x3e422b7e, 0x60000000, 0x3fe703b8, 0x3b0b5f91, 0x3e5d3857,
  0xe0000000, 0x3fe6f694, 0x84d628a2, 0xbe51f090, 0x00000000, 0x3fe6e975, 0x306d8894, 0xbe414d83,
  0xe0000000, 0x3fe6dc58, 0x30bf24aa, 0xbe4650ca, 0x80000000, 0x3fe6cf40, 0xd4628d69, 0xbe5db007,
  0xc0000000, 0x3fe6c22b, 0xa2aae57b, 0xbe31d279, 0xc0000000, 0x3fe6b51a, 0x860edf7e, 0xbe2d4c4a,
  0x80000000, 0x3fe6a80d, 0xf3559341, 0xbe5f7e98, 0xe0000000, 0x3fe69b03, 0xa885899e, 0xbe5c2011,
  0xe0000000, 0x3fe68dfd, 0x2bdc6d37, 0x3e224a82, 0xa0000000, 0x3fe680fb, 0xc12ad1b9, 0xbe40cf56,
  0x00000000, 0x3fe673fd, 0x1bcdf659, 0xbdf52f2d, 0x00000000, 0x3fe66702, 0x5df10408, 0x3e5663e0,
  0xc0000000, 0x3fe65a0a, 0xa4070568, 0xbe40b12f, 0x00000000, 0x3fe64d17, 0x71c54c47, 0x3e5f5e8b,
  0x00000000, 0x3fe64027, 0xbd4b7e83, 0x3e42ead6, 0xa0000000, 0x3fe6333a, 0x61598bd2, 0xbe4c48d4,
  0xc0000000, 0x3fe62651, 0x6f538d61, 0x3e548401, 0xa0000000, 0x3fe6196c, 0x14344120, 0xbe529af6,
  0x00000000, 0x3fe60c8b, 0x5982c587, 0xbe3e1e4f, 0x00000000, 0x3fe5ffad, 0xfe51d4ea, 0xbe4c897a,
  0x80000000, 0x3fe5f2d2, 0xfd46ebe1, 0x3e552e00, 0xa0000000, 0x3fe5e5fb, 0xa4695699, 0x3e5ed471,
  0x60000000, 0x3fe5d928, 0x80d118ae, 0x3e456b61, 0xa0000000, 0x3fe5cc58, 0x304c330b, 0x3e54dc29,
  0x80000000, 0x3fe5bf8c, 0x0af2dedf, 0xbe3aa9bd, 0xe0000000, 0x3fe5b2c3, 0x15fc9258, 0xbe479a37,
  0xc0000000, 0x3fe5a5fe, 0x9292c7ea, 0x3e188650, 0x20000000, 0x3fe5993d, 0x33b4d380, 0x3e5d6d93,
  0x20000000, 0x3fe58c7f, 0x02fd16c7, 0x3e2fe961, 0xa0000000, 0x3fe57fc4, 0x4a05edb6, 0xbe4d55b4,
  0xa0000000, 0x3fe5730d, 0x3d443abb, 0xbe5e6954, 0x00000000, 0x3fe5665a, 0x024acfea, 0x3e50e61b,
  0x00000000, 0x3fe559aa, 0xcc9edd09, 0xbe325403, 0x60000000, 0x3fe54cfd, 0x1fe26950, 0x3e5d500e,
  0x60000000, 0x3fe54054, 0x6c5ae164, 0xbe4a79b4, 0xc0000000, 0x3fe533ae, 0x154b0287, 0xbe401571,
  0xa0000000, 0x3fe5270c, 0x0673f401, 0xbe56e56b, 0xe0000000, 0x3fe51a6d, 0x751b639c, 0x3e235269,
  0xa0000000, 0x3fe50dd2, 0x7c7b2bed, 0x3ddec887, 0xc0000000, 0x3fe5013a, 0xafab4e17, 0x3e5e7575,
  0x60000000, 0x3fe4f4a6, 0x2e308668, 0x3e59aed6, 0x80000000, 0x3fe4e815, 0xf33e2a76, 0xbe51f184,
  0xe0000000, 0x3fe4db87, 0x839f3e3e, 0x3e57db01, 0xc0000000, 0x3fe4cefd, 0xa9eda7bb, 0x3e535e0f,
  0x00000000, 0x3fe4c277, 0x2a8f66a5, 0x3e5ce451, 0xc0000000, 0x3fe4b5f3, 0x05192456, 0xbe4e8518,
  0xc0000000, 0x3fe4a973, 0x4aa7cd1d, 0x3e46784a, 0x40000000, 0x3fe49cf7, 0x8e23025e, 0xbe5749f2,
  0x00000000, 0x3fe4907e, 0x18d30215, 0x3e360f39, 0x20000000, 0x3fe48408, 0x63dcf2f3, 0x3e5e00fe,
  0xc0000000, 0x3fe47795, 0x46182d09, 0xbe5173d9, 0xa0000000, 0x3fe46b26, 0x8f0e62aa, 0xbe48f281,
  0xe0000000, 0x3fe45eba, 0x5775c40c, 0xbe56aad4, 0x60000000, 0x3fe45252, 0x0fe25f69, 0x3e48bd71,
  0x40000000, 0x3fe445ed, 0xe9989ec5, 0x3e590d97, 0x80000000, 0x3fe4398b, 0xb3d9ffe3, 0x3e479dbc,
  0x20000000, 0x3fe42d2d, 0x388e4d2e, 0xbe5eed80, 0xe0000000, 0x3fe420d1, 0x6f797c18, 0x3e554b4c,
  0x20000000, 0x3fe4147a, 0x31048bb4, 0xbe5b1112, 0x80000000, 0x3fe40825, 0x2efba4f9, 0x3e48ebc7,
  0x40000000, 0x3fe3fbd4, 0x50201119, 0x3e40b701, 0x40000000, 0x3fe3ef86, 0x0a4db32c, 0x3e551de8,
  0xa0000000, 0x3fe3e33b, 0x0c9c148b, 0xbe50c1f6, 0x20000000, 0x3fe3d6f4, 0xc9129447, 0x3e533fa0,
  0x00000000, 0x3fe3cab0, 0xaae5b5a0, 0xbe22b68e, 0x20000000, 0x3fe3be6f, 0x02305e8a, 0xbe54fc08,
  0x60000000, 0x3fe3b231, 0x7f908258, 0x3e57dc05, 0x00000000, 0x3fe3a5f7, 0x1a09af78, 0x3e08038b,
  0xe0000000, 0x3fe399bf, 0x490643c1, 0xbe5dbe42, 0xe0000000, 0x3fe38d8b, 0x5e8ad724, 0xbe3c2b72,
  0x20000000, 0x3fe3815b, 0xc67196b6, 0x3e1713cf, 0xa0000000, 0x3fe3752d, 0x6182e429, 0xbe3ec14c,
  0x40000000, 0x3fe36903, 0xab6eb1ae, 0x3e5a2cc5, 0x40000000, 0x3fe35cdc, 0xfe5dc064, 0xbe5c5878,
  0x40000000, 0x3fe350b8, 0x0ba6b9e4, 0x3e51619b, 0x80000000, 0x3fe34497, 0x857761aa, 0x3e5fff53,
  0x00000000, 0x3fe3387a, 0xf872d68c, 0x3e484f4d, 0xa0000000, 0x3fe32c5f, 0x087e97c2, 0x3e52842e,
  0x80000000, 0x3fe32048, 0x73d6d0c0, 0xbe503edf, 0x80000000, 0x3fe31434, 0x0c1456a1, 0xbe5f72ad,
  0xa0000000, 0x3fe30823, 0x83a1a4d5, 0xbe5e65cc, 0xe0000000, 0x3fe2fc15, 0x855a7390, 0xbe506438,
  0x40000000, 0x3fe2f00b, 0xa2898287, 0x3e3d22a2, 0xe0000000, 0x3fe2e403, 0x8b56f66f, 0xbe5aa5fd,
  0x80000000, 0x3fe2d7ff, 0x52db119a, 0x3e3a2e3d, 0x60000000, 0x3fe2cbfe, 0xe2ddd4c0, 0xbe586469,
  0x40000000, 0x3fe2c000, 0x6b01bf10, 0x3e352b9d, 0x40000000, 0x3fe2b405, 0xb07a1cdf, 0x3e5c5cda,
  0x80000000, 0x3fe2a80d, 0xc7b5f868, 0xbe5668b3, 0xc0000000, 0x3fe29c18, 0x185edf62, 0xbe563d66,
  0x00000000, 0x3fe29027, 0xf729e1cc, 0x3e59a9a0, 0x80000000, 0x3fe28438, 0x6433c727, 0xbe43cc89,
  0x00000000, 0x3fe2784d, 0x41782631, 0xbe30750c, 0xa0000000, 0x3fe26c64, 0x914911b7, 0xbe58290e,
  0x40000000, 0x3fe2607f, 0x3dcc73e1, 0xbe4269cd, 0x00000000, 0x3fe2549d, 0x2751bf70, 0xbe5a6998,
  0xc0000000, 0x3fe248bd, 0x4248b9fb, 0xbe4ddb00, 0x80000000, 0x3fe23ce1, 0xf35cf82f, 0x3e561b71,
  0x60000000, 0x3fe23108, 0x8e481a2d, 0x3e518fb9, 0x60000000, 0x3fe22532, 0x5ab96edc, 0xbe5fafc5,
  0x40000000, 0x3fe2195f, 0x80943911, 0xbe07f819, 0x40000000, 0x3fe20d8f, 0x386f2d6c, 0xbe54ba8b,
  0x40000000, 0x3fe201c2, 0xf29664ac, 0xbe5eb815, 0x20000000, 0x3fe1f5f8, 0x64f03390, 0x3e5e320c,
  0x20000000, 0x3fe1ea31, 0x747ff696, 0x3e5ef0a5, 0x40000000, 0x3fe1de6d, 0x3e9ceb51, 0xbe5f8d27,
  0x20000000, 0x3fe1d2ac, 0x4ae0b55e, 0x3e5faa21, 0x20000000, 0x3fe1c6ee, 0x28569a5e, 0x3e598a4f,
  0x20000000, 0x3fe1bb33, 0x54b33e07, 0x3e46130a, 0x20000000, 0x3fe1af7b, 0x024f1078, 0xbe4dbf93,
  0x00000000, 0x3fe1a3c6, 0xb0783bfa, 0x3e419248, 0xe0000000, 0x3fe19813, 0x2f02b836, 0x3e4e02b7,
  0xc0000000, 0x3fe18c64, 0x28dec9d4, 0x3e09064f, 0x80000000, 0x3fe180b8, 0x45cbf406, 0x3e5b1f46,
  0x40000000, 0x3fe1750f, 0x03d9964c, 0x3e5b0a79, 0x00000000, 0x3fe16969, 0x8b5b882b, 0xbe238086,
  0xa0000000, 0x3fe15dc5, 0x73bad6f8, 0xbdf1fca4, 0x20000000, 0x3fe15225, 0x5385769c, 0x3e5e8d76,
  0xa0000000, 0x3fe14687, 0x1676dc6b, 0x3e571d08, 0x20000000, 0x3fe13aed, 0xa8c41c7f, 0xbe598a25,
  0x60000000, 0x3fe12f55, 0xc4e1aaf0, 0x3e435277, 0xa0000000, 0x3fe123c0, 0x403638e1, 0xbe21aa7c,
  0xc0000000, 0x3fe1182e, 0x557a092b, 0xbdd0116b, 0xc0000000, 0x3fe10c9f, 0x7d779f66, 0x3e4a61ba,
  0xc0000000, 0x3fe10113, 0x2b09c645, 0xbe5d586e, 0x20000000, 0x3fe0ea04, 0xea2cad46, 0x3e5aa97c,
  0x20000000, 0x3fe0d300, 0x23190e54, 0x3e50f1a7, 0xa0000000, 0x3fe0bc07, 0x1379a5a6, 0xbe51619d,
  0x60000000, 0x3fe0a51a, 0x926a3d4a, 0x3e5cf019, 0xa0000000, 0x3fe08e38, 0xa8c24358, 0x3e35241e,
  0x20000000, 0x3fe07762, 0x24317e7a, 0x3e512cfa, 0x00000000, 0x3fe06097, 0xfd9cf274, 0xbe55bef3,
  0x00000000, 0x3fe049d7, 0x3689b49d, 0xbe36d26d, 0x40000000, 0x3fe03322, 0xf72ef6c4, 0xbe54cd08,
  0xa0000000, 0x3fe01c78, 0x23702d2d, 0xbe5900bf, 0x00000000, 0x3fe005da, 0x3f59c14c, 0x3e57d80b,
  0x40000000, 0x3fdfde8d, 0xad67766d, 0xbe57fad4, 0x40000000, 0x3fdfb17c, 0x644f4ae7, 0x3e1ee43b,
  0x40000000, 0x3fdf8481, 0x903234d2, 0x3e501a86, 0x40000000, 0x3fdf579c, 0xafe9e509, 0xbe267c3e,
  0x00000000, 0x3fdf2acd, 0xb7dfda0b, 0xbe48149b, 0x40000000, 0x3fdefe13, 0x3b94305e, 0x3e5f4ea7,
  0x80000000, 0x3fded16f, 0x5d95da61, 0xbe55c198, 0x00000000, 0x3fdea4e1, 0x406960c9, 0xbdd99a19,
  0x00000000, 0x3fde7868, 0xd22f3539, 0x3e470c78, 0x80000000, 0x3fde4c04, 0x83eec535, 0xbe3e1232,
  0x40000000, 0x3fde1fb6, 0x3dfbffcb, 0xbe4b7d71, 0x40000000, 0x3fddf37d, 0x7e1be4e0, 0xbe5b8f8f,
  0x40000000, 0x3fddc759, 0x46dae887, 0xbe350458, 0x80000000, 0x3fdd9b4a, 0xed6ecc49, 0xbe5f0045,
  0x80000000, 0x3fdd6f50, 0x2e9e883c, 0x3e2915da, 0x80000000, 0x3fdd436b, 0xf0bccb32, 0x3e4a68c9,
  0x80000000, 0x3fdd179b, 0x9bbfc779, 0xbe54a26a, 0x00000000, 0x3fdcebe0, 0x7cea33ab, 0x3e43c6b7,
  0x40000000, 0x3fdcc039, 0xe740fd06, 0x3e5526c2, 0x40000000, 0x3fdc94a7, 0x9eadeb1a, 0xbe396d8d,
  0xc0000000, 0x3fdc6929, 0xf0a8f95a, 0xbe5c0ab2, 0x80000000, 0x3fdc3dc0, 0x6ee2693b, 0x3e0992e6,
  0xc0000000, 0x3fdc126b, 0x5ac6b581, 0xbe2834b6, 0x40000000, 0x3fdbe72b, 0x8cc226ff, 0x3e3596a6,
  0x00000000, 0x3fdbbbff, 0xf92a74bb, 0x3e3c5813, 0x00000000, 0x3fdb90e7, 0x479664c0, 0xbe50d644,
  0x00000000, 0x3fdb65e3, 0x5004975b, 0xbe55258f, 0x00000000, 0x3fdb3af3, 0xe4b23194, 0xbe588407,
  0xc0000000, 0x3fdb1016, 0xe65d4d0a, 0x3e527c26, 0x80000000, 0x3fdae54e, 0x814fddd6, 0x3e5962a2,
  0x40000000, 0x3fdaba9a, 0xe19d0913, 0xbe562f4e, 0x80000000, 0x3fda8ff9, 0x43cfd006, 0xbe4cfdeb,
  0x40000000, 0x3fda656c, 0x686f0a4e, 0x3e5e47a8, 0xc0000000, 0x3fda3af2, 0x7200d410, 0x3e5e1199,
  0xc0000000, 0x3fda108c, 0xabd2266e, 0x3e5ee4d1, 0x40000000, 0x3fd9e63a, 0x396f8f2c, 0x3e4dbffb,
  0x00000000, 0x3fd9bbfb, 0xe32b25dd, 0x3e5c3a54, 0x40000000, 0x3fd991cf, 0x431e4035, 0xbe457925,
  0x80000000, 0x3fd967b6, 0x7bed3dd3, 0x3e40c61d, 0x00000000, 0x3fd93db1, 0xd7449365, 0x3e306419,
  0x80000000, 0x3fd913be, 0x1746e791, 0x3e56fcfc, 0x40000000, 0x3fd8e9df, 0xf3a9028b, 0xbe5041b9,
  0xc0000000, 0x3fd8c012, 0x56840c50, 0xbe26e20a, 0x40000000, 0x3fd89659, 0x19763102, 0xbe51f466,
  0x80000000, 0x3fd86cb2, 0x7032de7c, 0xbe4d298a, 0x80000000, 0x3fd8431e, 0xdeb39fab, 0xbe4361eb,
  0x40000000, 0x3fd8199d, 0x5d01cbe0, 0xbe5425b3, 0x80000000, 0x3fd7f02e, 0x3ce99aa9, 0x3e146fa8,
  0x80000000, 0x3fd7c6d2, 0xd1a262b9, 0xbe5a1a69, 0xc0000000, 0x3fd79d88, 0x8606c236, 0x3e423a08,
  0x80000000, 0x3fd77451, 0x8fd1e1b7, 0x3e5a6a63, 0xc0000000, 0x3fd74b2c, 0xe491456a, 0x3e42c1ca,
  0x40000000, 0x3fd7221a, 0x4499a6d7, 0x3e36a69a, 0x00000000, 0x3fd6f91a, 0x5237df94, 0xbe0f8f02,
  0x00000000, 0x3fd6d02c, 0xb6482c6e, 0xbe5abcf7, 0x00000000, 0x3fd6a750, 0x1919fd61, 0xbe57ade2,
  0x00000000, 0x3fd67e86, 0xaa7a994d, 0xbe3f3fbd, 0x00000000, 0x3fd655ce, 0x67db014c, 0x3e33c550,
  0x00000000, 0x3fd62d28, 0xa82856b7, 0xbe1409d1, 0xc0000000, 0x3fd60493, 0x1e6a300d, 0x3e55d899,
  0x80000000, 0x3fd5dc11, 0x1222bd5c, 0xbe35bfc0, 0xc0000000, 0x3fd5b3a0, 0x6e8dc2d3, 0x3e5d4d79,
  0x00000000, 0x3fd58b42, 0xe0e4ace6, 0xbe517303, 0x80000000, 0x3fd562f4, 0xb306e0a8, 0x3e5edf0f,
  0xc0000000, 0x3fd53ab8, 0x6574bc54, 0x3e5ee859, 0x80000000, 0x3fd5128e, 0xea902207, 0x3e5f6188,
  0xc0000000, 0x3fd4ea75, 0x9f911d79, 0x3e511735, 0x80000000, 0x3fd4c26e, 0xf9c77397, 0xbe5b1643,
  0x40000000, 0x3fd49a78, 0x15fc9258, 0x3e479a37, 0x80000000, 0x3fd47293, 0xd5a04dd9, 0xbe426e56,
  0xc0000000, 0x3fd44abf, 0xe04042f5, 0x3e56f7c6, 0x40000000, 0x3fd422fd, 0x1d8bf2c8, 0x3e5d8810,
  0x00000000, 0x3fd3fb4c, 0x88a8ddee, 0xbe311454, 0xc0000000, 0x3fd3d3ab, 0x3e3b5e47, 0xbe5d1b72,
  0x40000000, 0x3fd3ac1c, 0xc2ab5d59, 0x3e31b02b, 0xc0000000, 0x3fd3849d, 0xd4e34b9e, 0x3e51cb2f,
  0x40000000, 0x3fd35d30, 0x177204fb, 0xbe2b8cd7, 0x80000000, 0x3fd335d3, 0xfcd38c82, 0xbe4356e1,
  0x80000000, 0x3fd30e87, 0x64f54acc, 0xbe4e6224, 0x00000000, 0x3fd2e74c, 0xaa7975d9, 0x3e5dc0fe,
  0x80000000, 0x3fd2c021, 0x516dab3f, 0xbe50ffa3, 0x40000000, 0x3fd29907, 0x2bfb7313, 0x3e5674a2,
  0xc0000000, 0x3fd271fd, 0x0549fc99, 0x3e385d29, 0xc0000000, 0x3fd24b04, 0x55b63073, 0xbe500c6d,
  0x00000000, 0x3fd2241c, 0x3f91953a, 0x3e389977, 0xc0000000, 0x3fd1fd43, 0xa1543f71, 0xbe3487ab,
  0xc0000000, 0x3fd1d67b, 0x4ec8867c, 0x3df6a2dc, 0x00000000, 0x3fd1afc4, 0x4328e3bb, 0x3e41d9c0,
  0x80000000, 0x3fd1891c, 0x2e1cda84, 0x3e3bdd87, 0x40000000, 0x3fd16285, 0x4b5331ae, 0xbe53128e,
  0x00000000, 0x3fd13bfe, 0xb9aec164, 0xbe52ac98, 0xc0000000, 0x3fd11586, 0xd91e1316, 0xbe350630,
  0x80000000, 0x3fd0ef1f, 0x7cacc12c, 0x3e3f5219, 0x40000000, 0x3fd0c8c8, 0xbce277b7, 0x3e3d30c0,
  0x00000000, 0x3fd0a281, 0x2a63447d, 0xbe541377, 0x80000000, 0x3fd07c49, 0xfac483b5, 0xbe5772ec,
  0xc0000000, 0x3fd05621, 0x36b8a570, 0xbe4fd4bd, 0xc0000000, 0x3fd03009, 0xbae505f7, 0xbe450388,
  0x80000000, 0x3fd00a01, 0x3e35aead, 0xbe5430fc, 0x80000000, 0x3fcfc811, 0x707475ac, 0x3e38806e,
  0x80000000, 0x3fcf7c3f, 0xc91817fc, 0xbe40ccea, 0x80000000, 0x3fcf308c, 0xae05d5e9, 0xbe4919b8,
  0x80000000, 0x3fcee4f8, 0xae6cc9e6, 0xbe530b94, 0x00000000, 0x3fce9983, 0x1efe3e8e, 0x3e57747e,
  0x00000000, 0x3fce4e2d, 0xda78d9bf, 0xbe59a608, 0x00000000, 0x3fce02f5, 0x8abe2c2e, 0x3e4a35ad,
  0x00000000, 0x3fcdb7dc, 0x1495450d, 0xbe0872cc, 0x80000000, 0x3fcd6ce1, 0x86ee0ba0, 0xbe4f59a0,
  0x00000000, 0x3fcd2205, 0xe81ca888, 0x3e5402c3, 0x00000000, 0x3fccd747, 0x3b4424b9, 0x3e5dfdc3,
  0x80000000, 0x3fcc8ca7, 0xd305b56c, 0x3e202da6, 0x00000000, 0x3fcc4226, 0x399a6910, 0xbe482a1c,
  0x80000000, 0x3fcbf7c2, 0x747f7938, 0xbe587372, 0x80000000, 0x3fcbad7c, 0x6fc246a0, 0x3e50d83d,
  0x00000000, 0x3fcb6355, 0xee9e9be5, 0xbe5c35bd, 0x80000000, 0x3fcb194a, 0x8416c0bc, 0x3e546d4f,
  0x00000000, 0x3fcacf5e, 0x49f7f08f, 0x3e56da76, 0x00000000, 0x3fca858f, 0x5dc30de2, 0x3e5f390c,
  0x00000000, 0x3fca3bde, 0x950583b6, 0xbe5e4169, 0x80000000, 0x3fc9f249, 0x33631553, 0x3e52aeb1,
  0x00000000, 0x3fc9a8d3, 0xde8795a6, 0xbe59a504, 0x00000000, 0x3fc95f79, 0x076bf41e, 0x3e5122fe,
  0x80000000, 0x3fc9163c, 0x2914c8e7, 0x3e3dd064, 0x00000000, 0x3fc8cd1d, 0x3a30eca3, 0xbe21b4aa,
  0x80000000, 0x3fc8841a, 0xb2a96650, 0xbe575444, 0x80000000, 0x3fc83b34, 0x2376c0cb, 0xbe2a74c7,
  0x80000000, 0x3fc7f26b, 0xd8a0b653, 0xbe5181b6, 0x00000000, 0x3fc7a9bf, 0x32257882, 0xbe4a78b4,
  0x00000000, 0x3fc7612f, 0x1eee8bd9, 0xbe1bfe9d, 0x80000000, 0x3fc718bb, 0x0c603cc4, 0x3e36fdc9,
  0x80000000, 0x3fc6d064, 0x3728b8cf, 0xbe1e542e, 0x80000000, 0x3fc68829, 0xc79a4067, 0x3e5c380f,
  0x00000000, 0x3fc6400b, 0xf69eac69, 0x3e550a84, 0x80000000, 0x3fc5f808, 0xb7a780a4, 0x3e5d9224,
  0x80000000, 0x3fc5b022, 0xad9dfb1e, 0xbe55242f, 0x00000000, 0x3fc56858, 0x659b18be, 0xbe4bfda3,
  0x80000000, 0x3fc520a9, 0x66ee3631, 0xbe57d769, 0x80000000, 0x3fc4d916, 0x1ec62819, 0x3e2427f7,
  0x80000000, 0x3fc4919f, 0xdec25369, 0xbe435431, 0x00000000, 0x3fc44a44, 0xa8acfc4b, 0xbe3c62e8,
  0x00000000, 0x3fc40304, 0xcf1d3eab, 0xbdfba29f, 0x80000000, 0x3fc3bbdf, 0x79aba3ea, 0xbdf1b7c8,
  0x80000000, 0x3fc374d6, 0xb8d186da, 0xbe5130cf, 0x80000000, 0x3fc32de8, 0x9d74f152, 0x3e2285b6,
  0x00000000, 0x3fc2e716, 0x50ae7ca9, 0xbe503920, 0x80000000, 0x3fc2a05e, 0x6caed92e, 0xbe533924,
  0x00000000, 0x3fc259c2, 0x9cb5034e, 0xbe510e31, 0x80000000, 0x3fc21340, 0x12c4d378, 0xbe540b43,
  0x80000000, 0x3fc1ccd9, 0xcc418706, 0x3e59887a, 0x00000000, 0x3fc1868e, 0x921f4106, 0xbe528e67,
  0x80000000, 0x3fc1405c, 0x3969441e, 0x3e5d8051, 0x00000000, 0x3fc0fa46, 0xd941ef5b, 0x3e5f9079,
  0x80000000, 0x3fc0b44a, 0x5a3e81b2, 0xbe567691, 0x00000000, 0x3fc06e69, 0x9d66afe7, 0xbe4d43fb,
  0x00000000, 0x3fc028a2, 0x0a92a162, 0xbe52f394, 0x00000000, 0x3fbfc5ea, 0x209897e5, 0x3e529e37,
  0x00000000, 0x3fbf3ac5, 0x8458bd7b, 0x3e582831, 0x00000000, 0x3fbeafd5, 0xb8d8b4b8, 0xbe486b4a,
  0x00000000, 0x3fbe2518, 0xe0a3b7b6, 0x3e5bafd2, 0x00000000, 0x3fbd9a90, 0x2bf2710e, 0x3e383b2b,
  0x00000000, 0x3fbd103c, 0x73eb6ab7, 0xbe56d78d, 0x00000000, 0x3fbc861b, 0x32ceaff5, 0xbe32dc5a,
  0x00000000, 0x3fbbfc2e, 0xbee04cb7, 0xbe4a71a4, 0x00000000, 0x3fbb7274, 0x35ae9577, 0x3e38142f,
  0x00000000, 0x3fbae8ee, 0xcbaddab4, 0xbe5490f0, 0x00000000, 0x3fba5f9a, 0x95ce1114, 0x3e597c71,
  0x00000000, 0x3fb9d67a, 0x6d7c0f78, 0x3e3abc2d, 0x00000000, 0x3fb94d8d, 0x2841a782, 0xbe566cbc,
  0x00000000, 0x3fb8c4d2, 0x6ed429c6, 0xbe3cfff9, 0x00000000, 0x3fb83c4a, 0xe4a49fbb, 0xbe552964,
  0x00000000, 0x3fb7b3f4, 0x2193d81e, 0xbe42fa72, 0x00000000, 0x3fb72bd0, 0xdd70c122, 0x3e527a8c,
  0x00000000, 0x3fb6a3df, 0x03108a54, 0xbe450393, 0x00000000, 0x3fb61c1f, 0x30ff7954, 0x3e565840,
  0x00000000, 0x3fb59492, 0xdedd460c, 0xbe5422b5, 0x00000000, 0x3fb50d36, 0x950f9f45, 0xbe5313f6,
  0x00000000, 0x3fb4860b, 0x582cdcb1, 0x3e506d39, 0x00000000, 0x3fb3ff12, 0x7216d3a6, 0x3e4aa719,
  0x00000000, 0x3fb3784a, 0x57a423fd, 0x3e5a9b9f, 0x00000000, 0x3fb2f1b4, 0x7a138b41, 0xbe50b418,
  0x00000000, 0x3fb26b4e, 0x2fbfd7ea, 0x3e23a53e, 0x00000000, 0x3fb1e519, 0x18913ccb, 0x3e465fc1,
  0x00000000, 0x3fb15f15, 0x7ea24e21, 0x3e042843, 0x00000000, 0x3fb0d941, 0x7c6d9c77, 0x3e59f61e,
  0x00000000, 0x3fb0539e, 0x114efd44, 0x3e4ccab7, 0x00000000, 0x3faf9c56, 0x1777f657, 0x3e552f65,
  0x00000000, 0x3fae91d2, 0xc317b86a, 0xbe5a61e0, 0x00000000, 0x3fad87ac, 0xb7664efb, 0xbe41f64e,
  0x00000000, 0x3fac7de6, 0x5d3d03a9, 0x3e0807a0, 0x00000000, 0x3fab7480, 0x743c38eb, 0xbe3726e1,
  0x00000000, 0x3faa6b78, 0x06a253f1, 0x3e5ad636, 0x00000000, 0x3fa962d0, 0xa35f541b, 0x3e5a187a,
  0x00000000, 0x3fa85a88, 0x4b86e446, 0xbe508150, 0x00000000, 0x3fa7529c, 0x2589cacf, 0x3e52938a,
  0x00000000, 0x3fa64b10, 0xaf6b11f2, 0xbe3454cd, 0x00000000, 0x3fa543e2, 0x97506fef, 0xbe5fdec5,
  0x00000000, 0x3fa43d10, 0xe75f7dd9, 0xbe388dd3, 0x00000000, 0x3fa3369c, 0xa4139632, 0xbdea5177,
  0x00000000, 0x3fa23086, 0x352d6f1e, 0xbe565ad6, 0x00000000, 0x3fa12acc, 0x77449eb7, 0xbe50d5c7,
  0x00000000, 0x3fa0256e, 0x7478da78, 0x3e404724, 0x00000000, 0x3f9e40dc, 0xf59cef7f, 0xbe539d0a,
  0x00000000, 0x3f9c3790, 0x1511d43c, 0x3e53c2c8, 0x00000000, 0x3f9a2f00, 0x9b8bff3c, 0xbe43b3e1,
  0x00000000, 0x3f982724, 0xad1e22a5, 0x3e46f0bd, 0x00000000, 0x3f962000, 0x130d9356, 0x3e475ba0,
  0x00000000, 0x3f941994, 0x8f86f883, 0xbe513d0b, 0x00000000, 0x3f9213dc, 0x914d0dc8, 0xbe534335,
  0x00000000, 0x3f900ed8, 0x2d73e5e7, 0xbe22ba75, 0x00000000, 0x3f8c1510, 0xc5b7d70e, 0x3e599c5d,
  0x00000000, 0x3f880de0, 0x8a27857e, 0xbe3d28c8, 0x00000000, 0x3f840810, 0xda767328, 0x3e531b3d,
  0x00000000, 0x3f8003b0, 0x77bacaf3, 0xbe5f04e3, 0x00000000, 0x3f780150, 0xdf4b0720, 0x3e5a8bff,
  0x00000000, 0x3f6ffc40, 0x34c48e71, 0xbe3fcd99, 0x00000000, 0x3f5ff6c0, 0x1ad218af, 0xbe4c78a7,
  0x00000000, 0x00000000, 0x00000000, 0x80000000]

/-- Table `_log2_pow` (source line 2025), 4 words. -/
def log2_pow_data : List Nat := [
  0xfefa39ef, 0x3fe62e42, 0xfefa39ef, 0xbfe62e42]

/-- Table `_L_tbl` (source line 708), 516 words. -/
def L_tbl_data : List Nat := [
  0xfefa3800, 0x3fe62e42, 0x93c76730, 0x3d2ef357, 0xaa241800, 0x3fe5ee82, 0x0cda46be, 0x3d220238,
  0x5c364800, 0x3fe5af40, 0xac10c9fb, 0x3d2dfa63, 0x26bb8c00, 0x3fe5707a, 0xff3303dd, 0x3d09980b,
  0x26867800, 0x3fe5322e, 0x5d257531, 0x3d05ccc4, 0x835a5000, 0x3fe4f45a, 0x6d93b8fb, 0xbd2e6c51,
  0x6f970c00, 0x3fe4b6fd, 0xed4c541c, 0x3cef7115, 0x27e8a400, 0x3fe47a15, 0xf94d60aa, 0xbd22cb6a,
  0xf2f92400, 0x3fe43d9f, 0x481051f7, 0xbcfd984f, 0x2125cc00, 0x3fe4019c, 0x30f0c74c, 0xbd26ce79,
  0x0c36c000, 0x3fe3c608, 0x7cfe13c2, 0xbd02b736, 0x17197800, 0x3fe38ae2, 0xbb5569a4, 0xbd218b7a,
  0xad9d8c00, 0x3fe35028, 0x9527e6ac, 0x3d10b83f, 0x44340800, 0x3fe315da, 0xc5a0ed9c, 0xbd274e93,
  0x57b0e000, 0x3fe2dbf5, 0x07b9dc11, 0xbd17a6e5, 0x6d0ec000, 0x3fe2a278, 0xe797882d, 0x3d206d2b,
  0x1134dc00, 0x3fe26962, 0x05226250, 0xbd0b61f1, 0xd8bebc00, 0x3fe230b0, 0x6e48667b, 0x3d12fc06,
  0x5fc61800, 0x3fe1f863, 0xc9fe81d3, 0xbd2a7242, 0x49ae6000, 0x3fe1c078, 0xed70e667, 0x3cccacde,
  0x40f23c00, 0x3fe188ee, 0xf8ab4650, 0x3d14cc4e, 0xf6f29800, 0x3fe151c3, 0xa293ae49, 0xbd2edd97,
  0x23c75c00, 0x3fe11af8, 0xbb9ddcb2, 0xbd258647, 0x8611cc00, 0x3fe0e489, 0x07801742, 0x3d1c2998,
  0xe2d05400, 0x3fe0ae76, 0x887e7e27, 0x3d1f486b, 0x0533c400, 0x3fe078bf, 0x41edf5fd, 0x3d268122,
  0xbe760400, 0x3fe04360, 0xe79539e0, 0xbd04c45f, 0xe5b20800, 0x3fe00e5a, 0xb1727b1c, 0xbd053ba3,
  0xaf7a4800, 0x3fdfb358, 0x3c164935, 0x3d0085fa, 0xee031800, 0x3fdf4aa7, 0x6f014a8b, 0x3d12cde5,
  0x56b41000, 0x3fdee2a1, 0x5a470251, 0x3d2f27f4, 0xc3ddb000, 0x3fde7b42, 0x5372bd08, 0xbd246550,
  0x1a272800, 0x3fde148a, 0x07322938, 0xbd1326b2, 0x484c9800, 0x3fddae75, 0x60dc616a, 0xbd1ea42d,
  0x46def800, 0x3fdd4902, 0xe9a767a8, 0x3d235baf, 0x18064800, 0x3fdce42f, 0x3ec7a6b0, 0xbd0797c3,
  0xc7455800, 0x3fdc7ff9, 0xc15249ae, 0xbd29b6dd, 0x693fa000, 0x3fdc1c60, 0x7fe8e180, 0x3d2cec80,
  0x1b80e000, 0x3fdbb961, 0xf40a666d, 0x3d27d85b, 0x04462800, 0x3fdb56fa, 0x2d841995, 0x3d109525,
  0x5248d000, 0x3fdaf529, 0x52774458, 0xbd217cc5, 0x3c8ad800, 0x3fda93ed, 0xbea77a5d, 0x3d1e36f2,
  0x0224f800, 0x3fda3344, 0x7f9d79f5, 0x3d23c645, 0xea15f000, 0x3fd9d32b, 0x10d0c0b0, 0xbd26279e,
  0x43135800, 0x3fd973a3, 0xa502d9f0, 0xbd152313, 0x635bf800, 0x3fd914a8, 0x2ee6307d, 0xbd1766b5,
  0xa88b3000, 0x3fd8b639, 0xe5e70470, 0xbd205ae1, 0x776dc800, 0x3fd85855, 0x3333778a, 0x3d2fd56f,
  0x3bd81800, 0x3fd7fafa, 0xc812566a, 0xbd272090, 0x687cf800, 0x3fd79e26, 0x2efd1778, 0x3d29ec7d,
  0x76c67800, 0x3fd741d8, 0x49dc60b3, 0x3d2d8b09, 0xe6af1800, 0x3fd6e60e, 0x7c222d87, 0x3d172165,
  0x3e9c6800, 0x3fd68ac8, 0x2756eba0, 0x3d20a0d3, 0x0b3ab000, 0x3fd63003, 0xe731ae00, 0xbd2db623,
  0xdf596000, 0x3fd5d5bd, 0x08a465dc, 0xbd0a0b2a, 0x53c8d000, 0x3fd57bf7, 0xee5d40ef, 0x3d1faded,
  0x0738a000, 0x3fd522ae, 0x8164c759, 0x3d2ebe70, 0x9e173000, 0x3fd4c9e0, 0x1b0ad8a4, 0xbd2e2089,
  0xc271c800, 0x3fd4718d, 0x0967d675, 0xbd2f27ce, 0x23d5e800, 0x3fd419b4, 0xec90e09d, 0x3d08e436,
  0x77333000, 0x3fd3c252, 0xb606bd5c, 0x3d183b54, 0x76be1000, 0x3fd36b67, 0xb0f177c8, 0x3d116ecd,
  0xe1d36000, 0x3fd314f1, 0xd3213cb8, 0xbd28e27a, 0x7cdc9000, 0x3fd2bef0, 0x4a5004f4, 0x3d2a9cfa,
  0x1134d800, 0x3fd26962, 0xdf5bb3b6, 0x3d2c93c1, 0x6d0eb800, 0x3fd21445, 0xba46baea, 0x3d0a87de,
  0x635a6800, 0x3fd1bf99, 0x5147bdb7, 0x3d2ca6ed, 0xcbacf800, 0x3fd16b5c, 0xf7a51681, 0x3d2b9acd,
  0x8227e800, 0x3fd1178e, 0x63a5f01c, 0xbd2c210e, 0x67616000, 0x3fd0c42d, 0x163ceae9, 0x3d27188b,
  0x604d5800, 0x3fd07138, 0x16ed4e91, 0x3cf89cdb, 0x5626c800, 0x3fd01eae, 0x1485e94a, 0xbd16f08c,
  0x6cb3b000, 0x3fcf991c, 0xca0cdf30, 0x3d1bcbec, 0xe4dd0000, 0x3fcef5ad, 0x65bb8e11, 0xbcca2115,
  0xffe71000, 0x3fce530e, 0x6041f430, 0x3cc21227, 0xb0d49000, 0x3fcdb13d, 0xf715b035, 0xbd2aff2a,
  0xf2656000, 0x3fcd1037, 0x75b6f6e4, 0xbd084a7e, 0xc6f01000, 0x3fcc6ffb, 0xc5962bd2, 0xbcf1ec72,
  0x383be000, 0x3fcbd087, 0x595412b6, 0xbd2d4bc4, 0x575bd000, 0x3fcb31d8, 0x4eace1aa, 0xbd0c358d,
  0x3c8ae000, 0x3fca93ed, 0x50562169, 0xbd287243, 0x07089000, 0x3fc9f6c4, 0x6865817a, 0x3d29904d,
  0xdcf70000, 0x3fc95a5a, 0x58a0ff6f, 0x3d07f228, 0xeb390000, 0x3fc8beaf, 0xaae92cd1, 0xbd073d54,
  0x6551a000, 0x3fc823c1, 0x9a631e83, 0x3d1e0ddb, 0x85445000, 0x3fc7898d, 0x70914305, 0xbd1c6610,
  0x8b757000, 0x3fc6f012, 0xe59c21e1, 0xbd25118d, 0xbe8c1000, 0x3fc6574e, 0x2c3c2e78, 0x3d19cf8b,
  0x6b544000, 0x3fc5bf40, 0xeb68981c, 0xbd127023, 0xe4a1b000, 0x3fc527e5, 0xe5697dc7, 0x3d2633e8,
  0x8333b000, 0x3fc4913d, 0x54fdb678, 0x3d258379, 0xa5993000, 0x3fc3fb45, 0x7e6a354d, 0xbd2cd1d8,
  0xb0159000, 0x3fc365fc, 0x234b7289, 0x3cc62fa8, 0x0c868000, 0x3fc2d161, 0xcb81b4a1, 0x3d039d6c,
  0x2a49c000, 0x3fc23d71, 0x8fd3df5c, 0x3d100d23, 0x7e23f000, 0x3fc1aa2b, 0x44389934, 0x3d2ca78e,
  0x8227e000, 0x3fc1178e, 0xce2d07f2, 0x3d21ef78, 0xb59e4000, 0x3fc08598, 0x7009902c, 0xbd27e5dd,
  0x39dbe000, 0x3fbfe891, 0x4fa10afd, 0xbd2534d6, 0x830a2000, 0x3fbec739, 0xafe645e0, 0xbd2dc068,
  0x63844000, 0x3fbda727, 0x1fa71733, 0x3d1a8940, 0x01bc4000, 0x3fbc8858, 0xc65aacd3, 0x3d2646d1,
  0x8dad6000, 0x3fbb6ac8, 0x2bf768e5, 0xbd139080, 0x40b1c000, 0x3fba4e76, 0xb94407c8, 0xbd0e42b6,
  0x5d594000, 0x3fb9335e, 0x3abd47da, 0x3d23115c, 0x2f40e000, 0x3fb8197e, 0xf96ffdf7, 0x3d0f80dc,
  0x0aeac000, 0x3fb700d3, 0xa99ded32, 0x3cec1e8d, 0x4d97a000, 0x3fb5e95a, 0x3c5d1d1e, 0xbd2c6906,
  0x5d208000, 0x3fb4d311, 0x82f4e1ef, 0xbcf53a25, 0xa7d1e000, 0x3fb3bdf5, 0xa5db4ed7, 0x3d2cc85e,
  0xa4472000, 0x3fb2aa04, 0xae9c697d, 0xbd20b6e8, 0xd1466000, 0x3fb1973b, 0x560d9e9b, 0xbd25325d,
  0xb59e4000, 0x3fb08598, 0x7009902c, 0xbd17e5dd, 0xc006c000, 0x3faeea31, 0x4fc93b7b, 0xbd0e113e,
  0xcdddc000, 0x3faccb73, 0x47d82807, 0xbd1a68f2, 0xd0fb0000, 0x3faaaef2, 0x353bb42e, 0x3d20fc1a,
  0x149fc000, 0x3fa894aa, 0xd05a267d, 0xbd197995, 0xf2d4c000, 0x3fa67c94, 0xec19afa2, 0xbd029efb,
  0xd42e0000, 0x3fa466ae, 0x75bdfd28, 0xbd2c1673, 0x2f8d0000, 0x3fa252f3, 0xe021b67b, 0x3d283e9a,
  0x89e74000, 0x3fa0415d, 0x5cf1d753, 0x3d0111c0, 0xec148000, 0x3f9c63d2, 0x3f9eb2f3, 0x3d2578c6,
  0x28c90000, 0x3f984925, 0x325a0c34, 0xbd2aa0ba, 0x25980000, 0x3f9432a9, 0x928637fe, 0x3d098139,
  0x58938000, 0x3f902056, 0x06e2f7d2, 0xbd23dc5b, 0xa3890000, 0x3f882448, 0xda74f640, 0xbd275577,
  0x75890000, 0x3f801015, 0x999d2be8, 0xbd10c76b, 0x59580000, 0x3f700805, 0xcb31c67b, 0x3d2166af,
  0x00000000, 0x00000000, 0x00000000, 0x80000000]

/-- Table `_log2` (source line 816), 4 words. -/
def log2_data : List Nat := [
  0xfefa3800, 0x3fa62e42, 0x93c76730, 0x3ceef357]

/-- Table `_coeff` (source line 821), 12 words. -/
def coeff_data : List Nat := [
  0x92492492, 0x3fc24924, 0x00000000, 0xbfd00000, 0x3d6fb175, 0xbfc5555e, 0x55555555, 0x3fd55555,
  0x9999999a, 0x3fc99999, 0x00000000, 0xbfe00000]

/-- Table `_cv` (source line 76), 24 words. -/
def cv_data : List Nat := [
  0x652b82fe, 0x40571547, 0x652b82fe, 0x40571547, 0xfefa0000, 0x3f862e42, 0xfefa0000, 0x3f862e42,
  0xbc9e3b3a, 0x3d1cf79a, 0xbc9e3b3a, 0x3d1cf79a, 0xfffffffe, 0x3fdfffff, 0xfffffffe, 0x3fdfffff,
  0xe3289860, 0x3f56c15c, 0x555b9e25, 0x3fa55555, 0xc090cf0f, 0x3f811115, 0x55548ba1, 0x3fc55555]

/-- Table `_shifter` (source line 85), 4 words. -/
def shifter_data : List Nat := [
  0x00000000, 0x43380000, 0x00000000, 0x43380000]

/-- Table `_mmask` (source line 90), 4 words. -/
def mmask_data : List Nat := [
  0xffffffc0, 0x00000000, 0xffffffc0, 0x00000000]

/-- Table `_bias` (source line 95), 4 words. -/
def bias_data : List Nat := [
  0x0000ffc0, 0x00000000, 0x0000ffc0, 0x00000000]

/-- Table `_Tbl_addr` (source line 100), 256 words. -/
def Tbl_addr_data : List Nat := [
  0x00000000, 0x00000000, 0x00000000, 0x00000000, 0x0e03754d, 0x3cad7bbf, 0x3e778060, 0x00002c9a,
  0x3567f613, 0x3c8cd252, 0xd3158574, 0x000059b0, 0x61e6c861, 0x3c60f74e, 0x18759bc8, 0x00008745,
  0x5d837b6c, 0x3c979aa6, 0x6cf9890f, 0x0000b558, 0x702f9cd1, 0x3c3ebe3d, 0x32d3d1a2, 0x0000e3ec,
  0x1e63bcd8, 0x3ca3516e, 0xd0125b50, 0x00011301, 0x26f0387b, 0x3ca4c554, 0xaea92ddf, 0x0001429a,
  0x62523fb6, 0x3ca95153, 0x3c7d517a, 0x000172b8, 0x3f1353bf, 0x3c8b898c, 0xeb6fcb75, 0x0001a35b,
  0x3e3a2f5f, 0x3c9aecf7, 0x3168b9aa, 0x0001d487, 0x44a6c38d, 0x3c8a6f41, 0x88628cd6, 0x0002063b,
  0xe3a8a894, 0x3c968efd, 0x6e756238, 0x0002387a, 0x981fe7f2, 0x3c80472b, 0x65e27cdd, 0x00026b45,
  0x6d09ab31, 0x3c82f7e1, 0xf51fdee1, 0x00029e9d, 0x720c0ab3, 0x3c8b3782, 0xa6e4030b, 0x0002d285,
  0x4db0abb6, 0x3c834d75, 0x0a31b715, 0x000306fe, 0x5dd3f84a, 0x3c8fdd39, 0xb26416ff, 0x00033c08,
  0xcc187d29, 0x3ca12f8c, 0x373aa9ca, 0x000371a7, 0x738b5e8b, 0x3ca7d229, 0x34e59ff6, 0x0003a7db,
  0xa72a4c6d, 0x3c859f48, 0x4c123422, 0x0003dea6, 0x259d9205, 0x3ca8b846, 0x21f72e29, 0x0004160a,
  0x60c2ac12, 0x3c4363ed, 0x6061892d, 0x00044e08, 0xdaa10379, 0x3c6ecce1, 0xb5c13cd0, 0x000486a2,
  0xbb7aafb0, 0x3c7690ce, 0xd5362a27, 0x0004bfda, 0x9b282a09, 0x3ca083cc, 0x769d2ca6, 0x0004f9b2,
  0xc1aae707, 0x3ca509b0, 0x569d4f81, 0x0005342b, 0x18fdd78e, 0x3c933505, 0x36b527da, 0x00056f47,
  0xe21c5409, 0x3c9063e1, 0xdd485429, 0x0005ab07, 0x2b64c035, 0x3c9432e6, 0x15ad2148, 0x0005e76f,
  0x99f08c0a, 0x3ca01284, 0xb03a5584, 0x0006247e, 0x0073dc06, 0x3c99f087, 0x82552224, 0x00066238,
  0x0da05571, 0x3c998d4d, 0x667f3bcc, 0x0006a09e, 0x86ce4786, 0x3ca52bb9, 0x3c651a2e, 0x0006dfb2,
  0x206f0dab, 0x3ca32092, 0xe8ec5f73, 0x00071f75, 0x8e17a7a6, 0x3ca06122, 0x564267c8, 0x00075feb,
  0x461e9f86, 0x3ca244ac, 0x73eb0186, 0x0007a114, 0xabd66c55, 0x3c65ebe1, 0x36cf4e62, 0x0007e2f3,
  0xbbff67d0, 0x3c96fe9f, 0x994cce12, 0x00082589, 0x14c801df, 0x3c951f14, 0x9b4492ec, 0x000868d9,
  0xc1f0eab4, 0x3c8db72f, 0x422aa0db, 0x0008ace5, 0x59f35f44, 0x3c7bf683, 0x99157736, 0x0008f1ae,
  0x9c06283c, 0x3ca360ba, 0xb0cdc5e4, 0x00093737, 0x20f962aa, 0x3c95e8d1, 0x9fde4e4f, 0x00097d82,
  0x2b91ce27, 0x3c71affc, 0x82a3f090, 0x0009c491, 0x589a2ebd, 0x3c9b6d34, 0x7b5de564, 0x000a0c66,
  0x9ab89880, 0x3c95277c, 0xb23e255c, 0x000a5503, 0x6e735ab3, 0x3c846984, 0x5579fdbf, 0x000a9e6b,
  0x92cb3387, 0x3c8c1a77, 0x995ad3ad, 0x000ae89f, 0xdc2d1d96, 0x3ca22466, 0xb84f15fa, 0x000b33a2,
  0xb19505ae, 0x3ca1112e, 0xf2fb5e46, 0x000b7f76, 0x0a5fddcd, 0x3c74ffd7, 0x904bc1d2, 0x000bcc1e,
  0x30af0cb3, 0x3c736eae, 0xdd85529c, 0x000c199b, 0xd10959ac, 0x3c84e08f, 0x2e57d14b, 0x000c67f1,
  0x6c921968, 0x3c676b2c, 0xdcef9069, 0x000cb720, 0x36df99b3, 0x3c937009, 0x4a07897b, 0x000d072d,
  0xa63d07a7, 0x3c74a385, 0xdcfba487, 0x000d5818, 0xd5c192ac, 0x3c8e5a50, 0x03db3285, 0x000da9e6,
  0x1c4a9792, 0x3c98bb73, 0x337b9b5e, 0x000dfc97, 0x603a88d3, 0x3c74b604, 0xe78b3ff6, 0x000e502e,
  0x92094926, 0x3c916f27, 0xa2a490d9, 0x000ea4af, 0x41aa2008, 0x3c8ec3bc, 0xee615a27, 0x000efa1b,
  0x31d185ee, 0x3c8a64a9, 0x5b6e4540, 0x000f5076, 0x4d91cd9d, 0x3c77893b, 0x819e90d8, 0x000fa7c1]

/-- Table `_ALLONES` (source line 156), 4 words. -/
def ALLONES_data : List Nat := [
  0xffffffff, 0xffffffff, 0xffffffff, 0xffffffff]

/-- Table `_ebias` (source line 161), 4 words. -/
def ebias_data : List Nat := [
  0x00000000, 0x3ff00000, 0x00000000, 0x3ff00000]

/-- Table `_XMAX` (source line 166), 2 words. -/
def XMAX_data : List Nat := [
  0xffffffff, 0x7fefffff]

/-- Table `_XMIN` (source line 171), 2 words. -/
def XMIN_data : List Nat := [
  0x00000000, 0x00100000]

/-- Table `_INF` (source line 176), 2 words. -/
def INF_data : List Nat := [
  0x00000000, 0x7ff00000]

/-- Table `_ZERO` (source line 181), 2 words. -/
def ZERO_data : List Nat := [
  0x00000000, 0x00000000]

/-- Table `_ONE_val` (source line 186), 2 words. -/
def ONE_val_data : List Nat := [
  0x00000000, 0x3ff00000]

/-- The words of a table. -/
def Tbl.data : Tbl → List Nat
  | .HIGHSIGMASK => HIGHSIGMASK_data
  | .LOG2_E => LOG2_E_data
  | .HIGHMASK_Y => HIGHMASK_Y_data
  | .T_exp => T_exp_data
  | .e_coeff => e_coeff_data
  | .coeff_h => coeff_h_data
  | .HIGHMASK_LOG_X => HIGHMASK_LOG_X_data
  | .HALFMASK => HALFMASK_data
  | .coeff_pow => coeff_pow_data
  | .L_tbl_pow => L_tbl_pow_data
  | .log2_pow => log2_pow_data
  | .L_tbl => L_tbl_data
  | .log2 => log2_data
  | .coeff => coeff_data
  | .cv => cv_data
  | .shifter => shifter_data
  | .mmask => mmask_data
  | .bias => bias_data
  | .Tbl_addr => Tbl_addr_data
  | .ALLONES => ALLONES_data
  | .ebias => ebias_data
  | .XMAX => XMAX_data
  | .XMIN => XMIN_data
  | .INF => INF_data
  | .ZERO => ZERO_data
  | .ONE_val => ONE_val_data

/-! ### Memory model for the constant tables

Every table is an array of 32-bit words.  Tables are placed at distinct model addresses
(`Tbl.addr`), far enough apart that an address identifies its table; a read outside the
table's extent yields zero. -/

def Tbl.index : Tbl → Nat
  | .HIGHSIGMASK => 1 | .LOG2_E => 2 | .HIGHMASK_Y => 3 | .T_exp => 4 | .e_coeff => 5
  | .coeff_h => 6 | .HIGHMASK_LOG_X => 7 | .HALFMASK => 8 | .coeff_pow => 9
  | .L_tbl_pow => 10 | .log2_pow => 11 | .L_tbl => 12 | .log2 => 13 | .coeff => 14
  | .cv => 15 | .shifter => 16 | .mmask => 17 | .bias => 18 | .Tbl_addr => 19
  | .ALLONES => 20 | .ebias => 21 | .XMAX => 22 | .XMIN => 23 | .INF => 24 | .ZERO => 25
  | .ONE_val => 26

def Tbl.addr (t : Tbl) : Nat := t.index * 2 ^ 32

def regionData (i : Nat) : List Nat :=
  if i = 1 then Tbl.HIGHSIGMASK.data else if i = 2 then Tbl.LOG2_E.data
  else if i = 3 then Tbl.HIGHMASK_Y.data else if i = 4 then Tbl.T_exp.data
  else if i = 5 then Tbl.e_coeff.data else if i = 6 then Tbl.coeff_h.data
  else if i = 7 then Tbl.HIGHMASK_LOG_X.data else if i = 8 then Tbl.HALFMASK.data
  else if i = 9 then Tbl.coeff_pow.data else if i = 10 then Tbl.L_tbl_pow.data
  else if i = 11 then Tbl.log2_pow.data else if i = 12 then Tbl.L_tbl.data
  else if i = 13 then Tbl.log2.data else if i = 14 then Tbl.coeff.data
  else if i = 15 then Tbl.cv.data else if i = 16 then Tbl.shifter.data
  else if i = 17 then Tbl.mmask.data else if i = 18 then Tbl.bias.data
  else if i = 19 then Tbl.Tbl_addr.data else if i = 20 then Tbl.ALLONES.data
  else if i = 21 then Tbl.ebias.data else if i = 22 then Tbl.XMAX.data
  else if i = 23 then Tbl.XMIN.data else if i = 24 then Tbl.INF.data
  else if i = 25 then Tbl.ZERO.data else if i = 26 then Tbl.ONE_val.data else []

/-- The 32-bit word at a (4-byte aligned) model address. -/
def load32 (a : Nat) : Nat := (regionData (a / 2 ^ 32)).getD (a % 2 ^ 32 / 4) 0
def load64 (a : Nat) : Nat := load32 a + 2 ^ 32 * load32 (a + 4)
def load128 (a : Nat) : Nat := load64 a + 2 ^ 64 * load64 (a + 8)

namespace MacroAssembler
open XReg GReg

/-- Effective address `base + index * scale + disp` (64-bit wrap-around; a negative
displacement is given as its two's complement). -/
def ea (s : Machine) (base index : GReg) (scale disp : Nat) : Nat :=
  (s.gr base + s.gr index * scale + disp) % 2 ^ 64

/-- Statement `bind(l)`: execution passes the label `l`. -/
def bind (l : Label) (s : Machine) : Machine := s.enter l

/-! #### Data movement -/

/-- Instruction `subq(rsp, n)`: allocate the local frame; the frame is addressed relative
to the adjusted stack pointer, its initial contents are those of the initial state. -/
def subq_rsp (_n : Nat) (s : Machine) : Machine := s
/-- Instruction `addq(rsp, n)`: release the local frame. -/
def addq_rsp (_n : Nat) (s : Machine) : Machine := s

def movl_ri (r : GReg) (imm : Nat) (s : Machine) : Machine := s.setg r (imm % 2 ^ 32)
def movl_rr (d a : GReg) (s : Machine) : Machine := s.setg d (s.g32 a)
def mov64 (r : GReg) (imm : Nat) (s : Machine) : Machine := s.setg r (imm % 2 ^ 64)
/-- Instruction `movl(Address(rsp, k), imm)`: store a doubleword into the frame. -/
def movl_mi (k imm : Nat) (s : Machine) : Machine :=
  let q := s.stk (k / 8 * 8)
  let sh := 2 ^ (8 * (k % 8))
  s.setstk (k / 8 * 8) (q - (q / sh % 2 ^ 32) * sh + (imm % 2 ^ 32) * sh)
/-- Instruction `movl(reg, Address(rsp, k))`: load a doubleword from the frame. -/
def movl_rm (r : GReg) (k : Nat) (s : Machine) : Machine := s.setg r (s.stkBytes k 4)
/-- Instruction `movw(reg, Address(rsp, k))`: load 16 bits, upper register bits unchanged. -/
def movw_rm (r : GReg) (k : Nat) (s : Machine) : Machine :=
  s.setg r (s.gr r - s.gr r % 2 ^ 16 + s.stkBytes k 2)
def lea (r : GReg) (t : Tbl) (s : Machine) : Machine := s.setg r t.addr
/-- Instruction `movd r32, xmm`. -/
def movdl_rx (r : GReg) (a : XReg) (s : Machine) : Machine := s.setg r (s.xr a % 2 ^ 32)
/-- Instruction `movd xmm, r32`. -/
def movdl_xr (d : XReg) (r : GReg) (s : Machine) : Machine := s.setx d (s.gr r % 2 ^ 32)
/-- Instruction `movq xmm, r64`. -/
def movdq_xr (d : XReg) (r : GReg) (s : Machine) : Machine := s.setx d (s.gr r % 2 ^ 64)
def movdqu_xx (d a : XReg) (s : Machine) : Machine := s.setx d (s.xr a)
def movapd (d a : XReg) (s : Machine) : Machine := s.setx d (s.xr a)
def movdqu_xe (d : XReg) (t : Tbl) (off : Nat) (s : Machine) : Machine :=
  s.setx d (load128 (t.addr + off))
def movdqu_xi (d : XReg) (base index : GReg) (scale disp : Nat) (s : Machine) : Machine :=
  s.setx d (load128 (ea s base index scale disp))
/-- Instruction `movq xmm, m64` from the stack frame (upper quadword cleared). -/
def movq_xm (d : XReg) (k : Nat) (s : Machine) : Machine := s.setx d (s.stk k % 2 ^ 64)
def movq_xe (d : XReg) (t : Tbl) (off : Nat) (s : Machine) : Machine :=
  s.setx d (load64 (t.addr + off))
def movq_xi (d : XReg) (base index : GReg) (scale disp : Nat) (s : Machine) : Machine :=
  s.setx d (load64 (ea s base index scale disp))
/-- Instruction `movsd xmm, m64` from the stack frame (upper quadword cleared). -/
def movsd_xm (d : XReg) (k : Nat) (s : Machine) : Machine := s.setx d (s.stk k % 2 ^ 64)
/-- Instruction `movsd xmm, m64` from a table (upper quadword cleared). -/
def movsd_xe (d : XReg) (t : Tbl) (off : Nat) (s : Machine) : Machine :=
  s.setx d (load64 (t.addr + off))
/-- Instruction `movq m64, xmm` into the stack frame. -/
def movq_mx (k : Nat) (a : XReg) (s : Machine) : Machine := s.setstk k (lo64 (s.xr a))
/-- Instruction `movsd m64, xmm` into the stack frame. -/
def movsd_mx (k : Nat) (a : XReg) (s : Machine) : Machine := s.setstk k (lo64 (s.xr a))
def pextrw (r : GReg) (a : XReg) (i : Nat) (s : Machine) : Machine :=
  s.setg r (s.xr a / 2 ^ (16 * i) % 2 ^ 16)
def pinsrw (d : XReg) (r : GReg) (i : Nat) (s : Machine) : Machine :=
  let v := s.xr d
  s.setx d (v - (v / 2 ^ (16 * i) % 2 ^ 16) * 2 ^ (16 * i) + (s.gr r % 2 ^ 16) * 2 ^ (16 * i))
def pshufd (d a : XReg) (imm : Nat) (s : Machine) : Machine :=
  let v := s.xr a
  s.setx d (mkdw (dw v (imm % 4)) (dw v (imm / 4 % 4)) (dw v (imm / 16 % 4)) (dw v (imm / 64 % 4)))
def unpcklpd (d a : XReg) (s : Machine) : Machine :=
  s.setx d (mk128 (lo64 (s.xr d)) (lo64 (s.xr a)))
def unpckhpd (d a : XReg) (s : Machine) : Machine :=
  s.setx d (mk128 (hi64 (s.xr d)) (hi64 (s.xr a)))
def movddup (d a : XReg) (s : Machine) : Machine :=
  s.setx d (mk128 (lo64 (s.xr a)) (lo64 (s.xr a)))
def movlhps (d a : XReg) (s : Machine) : Machine :=
  s.setx d (mk128 (lo64 (s.xr d)) (lo64 (s.xr a)))

/-! #### Packed integer and logical operations -/

def xorpd (d a : XReg) (s : Machine) : Machine := s.setx d (s.xr d ^^^ s.xr a)
def pxor (d a : XReg) (s : Machine) : Machine := s.setx d (s.xr d ^^^ s.xr a)
def por (d a : XReg) (s : Machine) : Machine := s.setx d (s.xr d ||| s.xr a)
def pand (d a : XReg) (s : Machine) : Machine := s.setx d (s.xr d &&& s.xr a)
def psrlq (d : XReg) (n : Nat) (s : Machine) : Machine :=
  s.setx d (mk128 (lo64 (s.xr d) / 2 ^ n) (hi64 (s.xr d) / 2 ^ n))
def psllq (d : XReg) (n : Nat) (s : Machine) : Machine :=
  s.setx d (mk128 (lo64 (s.xr d) * 2 ^ n % 2 ^ 64) (hi64 (s.xr d) * 2 ^ n % 2 ^ 64))
def psrld (d : XReg) (n : Nat) (s : Machine) : Machine :=
  let v := s.xr d
  s.setx d (mkdw (dw v 0 / 2 ^ n) (dw v 1 / 2 ^ n) (dw v 2 / 2 ^ n) (dw v 3 / 2 ^ n))
def paddd (d a : XReg) (s : Machine) : Machine :=
  let v := s.xr d
  let w := s.xr a
  s.setx d (mkdw ((dw v 0 + dw w 0) % 2 ^ 32) ((dw v 1 + dw w 1) % 2 ^ 32)
                 ((dw v 2 + dw w 2) % 2 ^ 32) ((dw v 3 + dw w 3) % 2 ^ 32))
def paddq (d a : XReg) (s : Machine) : Machine :=
  s.setx d (map2q (fun p q => (p + q) % 2 ^ 64) (s.xr d) (s.xr a))
def psubd (d a : XReg) (s : Machine) : Machine :=
  let v := s.xr d
  let w := s.xr a
  s.setx d (mkdw ((dw v 0 + 2 ^ 32 - dw w 0) % 2 ^ 32) ((dw v 1 + 2 ^ 32 - dw w 1) % 2 ^ 32)
                 ((dw v 2 + 2 ^ 32 - dw w 2) % 2 ^ 32) ((dw v 3 + 2 ^ 32 - dw w 3) % 2 ^ 32))
/-- Arithmetic right shift of a 32-bit lane by `n` (counts above 31 act as 31). -/
def sar32 (a n : Nat) : Nat :=
  let c := min n 31
  if a < 2 ^ 31 then a / 2 ^ c else a / 2 ^ c + (2 ^ 32 - 2 ^ (32 - c))
def psrad (d : XReg) (n : Nat) (s : Machine) : Machine :=
  let v := s.xr d
  s.setx d (mkdw (sar32 (dw v 0) n) (sar32 (dw v 1) n) (sar32 (dw v 2) n) (sar32 (dw v 3) n))
/-- Instruction `psllq xmm, xmm`: shift both quadwords left by the count held in the low
quadword of the source (a count above 63 clears the register). -/
def psllq_xx (d a : XReg) (s : Machine) : Machine :=
  let c := lo64 (s.xr a)
  s.setx d (if 63 < c then 0
    else mk128 (lo64 (s.xr d) * 2 ^ c % 2 ^ 64) (hi64 (s.xr d) * 2 ^ c % 2 ^ 64))

/-! #### Floating-point operations -/

/-- Instruction `rcpps`: approximate reciprocal in each single-precision lane.  The
estimate is implementation specific, so it is supplied by the function `rcp`. -/
def rcpps (rcp : Nat → Nat) (d a : XReg) (s : Machine) : Machine :=
  let v := s.xr a
  s.setx d (mkdw (rcp (dw v 0) % 2 ^ 32) (rcp (dw v 1) % 2 ^ 32)
                 (rcp (dw v 2) % 2 ^ 32) (rcp (dw v 3) % 2 ^ 32))
def mulss (d a : XReg) (s : Machine) : Machine :=
  let v := s.xr d
  s.setx d (v - v % 2 ^ 32 + f32Mul (dw v 0) (dw (s.xr a) 0))
def addsd (d a : XReg) (s : Machine) : Machine := s.setx d (mapLow f64Add (s.xr d) (s.xr a))
def subsd (d a : XReg) (s : Machine) : Machine := s.setx d (mapLow f64Sub (s.xr d) (s.xr a))
def mulsd (d a : XReg) (s : Machine) : Machine := s.setx d (mapLow f64Mul (s.xr d) (s.xr a))
def divsd (d a : XReg) (s : Machine) : Machine := s.setx d (mapLow f64Div (s.xr d) (s.xr a))
def mulsd_xe (d : XReg) (t : Tbl) (off : Nat) (s : Machine) : Machine :=
  s.setx d (mapLow f64Mul (s.xr d) (load64 (t.addr + off)))
def addsd_xe (d : XReg) (t : Tbl) (off : Nat) (s : Machine) : Machine :=
  s.setx d (mapLow f64Add (s.xr d) (load64 (t.addr + off)))
def addpd (d a : XReg) (s : Machine) : Machine := s.setx d (map2q f64Add (s.xr d) (s.xr a))
def subpd (d a : XReg) (s : Machine) : Machine := s.setx d (map2q f64Sub (s.xr d) (s.xr a))
def mulpd_xe (d : XReg) (t : Tbl) (off : Nat) (s : Machine) : Machine :=
  s.setx d (map2q f64Mul (s.xr d) (load128 (t.addr + off)))
def mulpd (d a : XReg) (s : Machine) : Machine := s.setx d (map2q f64Mul (s.xr d) (s.xr a))
def addpd_xi (d : XReg) (base index : GReg) (scale disp : Nat) (s : Machine) : Machine :=
  s.setx d (map2q f64Add (s.xr d) (load128 (ea s base index scale disp)))
def cvtsi2sdl (d : XReg) (r : GReg) (s : Machine) : Machine :=
  s.setx d (mk128 (i32ToF64 (s.g32 r)) (hi64 (s.xr d)))

/-! #### 32-bit integer arithmetic (results are zero-extended into the 64-bit register) -/

def andl_ri (r : GReg) (imm : Nat) (s : Machine) : Machine :=
  let res := s.g32 r &&& (imm % 2 ^ 32)
  (s.setg r res).flagsLogic res
def andl_rr (d a : GReg) (s : Machine) : Machine :=
  let res := s.g32 d &&& s.g32 a
  (s.setg d res).flagsLogic res
def orl_rr (d a : GReg) (s : Machine) : Machine :=
  let res := s.g32 d ||| s.g32 a
  (s.setg d res).flagsLogic res
def xorl_rr (d a : GReg) (s : Machine) : Machine :=
  let res := s.g32 d ^^^ s.g32 a
  (s.setg d res).flagsLogic res
def testl_ri (r : GReg) (imm : Nat) (s : Machine) : Machine :=
  s.flagsLogic (s.g32 r &&& (imm % 2 ^ 32))
def addl_ri (r : GReg) (imm : Nat) (s : Machine) : Machine :=
  (s.setg r ((s.g32 r + imm % 2 ^ 32) % 2 ^ 32)).flagsAdd (s.g32 r) (imm % 2 ^ 32)
def addl_rr (d a : GReg) (s : Machine) : Machine :=
  (s.setg d ((s.g32 d + s.g32 a) % 2 ^ 32)).flagsAdd (s.g32 d) (s.g32 a)
def subl_ri (r : GReg) (imm : Nat) (s : Machine) : Machine :=
  (s.setg r ((s.g32 r + 2 ^ 32 - imm % 2 ^ 32) % 2 ^ 32)).flagsSub (s.g32 r) (imm % 2 ^ 32)
def subl_rr (d a : GReg) (s : Machine) : Machine :=
  (s.setg d ((s.g32 d + 2 ^ 32 - s.g32 a) % 2 ^ 32)).flagsSub (s.g32 d) (s.g32 a)
def cmpl_ri (r : GReg) (imm : Nat) (s : Machine) : Machine :=
  s.flagsSub (s.g32 r) (imm % 2 ^ 32)

/-- Flags after a shift by the count `c` of state `s0`, applied to `s`: for a non-zero count
`zf`/`sf` follow the result and `cf` is the last bit shifted out (`ovf` is architecturally
defined only for one-bit shifts); a zero count leaves the flags unchanged. -/
def flagsShift (s s0 : Machine) (c res : Nat) (carry o : Bool) : Machine :=
  s.setFlags (if c = 0 then s0.cf else carry) (if c = 0 then s0.zf else decide (res = 0))
    (if c = 0 then s0.sf else decide (2 ^ 31 ≤ res)) (if c = 0 then s0.ovf else o)

/-- Instruction `sarl(reg, n)`: arithmetic right shift of the 32-bit register (a zero count
leaves the flags unchanged). -/
def sarl (r : GReg) (n : Nat) (s : Machine) : Machine :=
  let a := s.g32 r
  let c := n % 32
  let res := if a < 2 ^ 31 then a / 2 ^ c else a / 2 ^ c + (2 ^ 32 - 2 ^ (32 - c))
  flagsShift (s.setg r res) s c res (decide (a / 2 ^ (c - 1) % 2 = 1)) false
def shrl (r : GReg) (n : Nat) (s : Machine) : Machine :=
  let a := s.g32 r
  let c := n % 32
  let res := a / 2 ^ c
  flagsShift (s.setg r res) s c res (decide (a / 2 ^ (c - 1) % 2 = 1)) (decide (2 ^ 31 ≤ a))
def shll_ri (r : GReg) (n : Nat) (s : Machine) : Machine :=
  let a := s.g32 r
  let c := n % 32
  let res := a * 2 ^ c % 2 ^ 32
  flagsShift (s.setg r res) s c res (decide (a * 2 ^ c / 2 ^ 32 % 2 = 1))
    (decide (2 ^ 31 ≤ res) != decide (a * 2 ^ c / 2 ^ 32 % 2 = 1))
/-- Instruction `shll(reg)`: shift left by the count in `cl`. -/
def shll_cl (r : GReg) (s : Machine) : Machine :=
  let a := s.g32 r
  let c := s.gr ecx % 32
  let res := a * 2 ^ c % 2 ^ 32
  flagsShift (s.setg r res) s c res (decide (a * 2 ^ c / 2 ^ 32 % 2 = 1))
    (decide (2 ^ 31 ≤ res) != decide (a * 2 ^ c / 2 ^ 32 % 2 = 1))
/-- Instruction `shlq(reg, n)`: 64-bit shift left. -/
def shlq (r : GReg) (n : Nat) (s : Machine) : Machine :=
  let a := s.gr r % 2 ^ 64
  let c := n % 64
  let res := a * 2 ^ c % 2 ^ 64
  let carry := decide (a * 2 ^ c / 2 ^ 64 % 2 = 1)
  (s.setg r res).setFlags (if c = 0 then s.cf else carry) (if c = 0 then s.zf else decide (res = 0))
    (if c = 0 then s.sf else decide (2 ^ 63 ≤ res))
    (if c = 0 then s.ovf else (decide (2 ^ 63 ≤ res) != carry))
/-- Instruction `bsrl(dst, src)`: index of the highest set bit; for a zero source only `zf`
is defined and the destination is left unchanged. -/
def bsrl (d a : GReg) (s : Machine) : Machine :=
  let v := s.g32 a
  (s.setg d (if v = 0 then s.gr d else ilog2 v)).setFlags s.cf (decide (v = 0)) s.sf s.ovf

/-! #### Condition codes -/

def cc_equal (s : Machine) : Bool := s.zf
def cc_notEqual (s : Machine) : Bool := !s.zf
def cc_above (s : Machine) : Bool := !s.cf && !s.zf
def cc_aboveEqual (s : Machine) : Bool := !s.cf
def cc_below (s : Machine) : Bool := s.cf
def cc_belowEqual (s : Machine) : Bool := s.cf || s.zf
def cc_less (s : Machine) : Bool := s.sf != s.ovf
def cc_lessEqual (s : Machine) : Bool := s.zf || (s.sf != s.ovf)
def cc_greater (s : Machine) : Bool := !s.zf && (s.sf == s.ovf)
def cc_greaterEqual (s : Machine) : Bool := s.sf == s.ovf

end MacroAssembler

namespace MacroAssembler
open XReg GReg

namespace fast_exp

/-- Code following `bind(B1_5)` (source line 410). -/
def B1_5 (cpu : Cpu) (s : Machine) : Machine :=
  let s := bind Label.B1_5 s
  let s := addq_rsp 24 s
  s

/-- Code following `bind(L_2TAG_PACKET_11_0_2)` (source line 390). -/
def L_2TAG_PACKET_11_0_2 (cpu : Cpu) (s : Machine) : Machine :=
  let s := bind Label.L_2TAG_PACKET_11_0_2 s
  let s := movsd_xm xmm0 8 s
  let s := addsd xmm0 xmm0 s
  B1_5 cpu s

/-- Code following `bind(L_2TAG_PACKET_12_0_2)` (source line 386). -/
def L_2TAG_PACKET_12_0_2 (cpu : Cpu) (s : Machine) : Machine :=
  let s := bind Label.L_2TAG_PACKET_12_0_2 s
  let s := movsd_xe xmm0 Tbl.ZERO 0 s
  B1_5 cpu s

/-- Code following `bind(L_2TAG_PACKET_9_0_2)` (source line 374). -/
def L_2TAG_PACKET_9_0_2 (cpu : Cpu) (s : Machine) : Machine :=
  let s := bind Label.L_2TAG_PACKET_9_0_2 s
  let s := movl_rm edx 8 s
  let s := cmpl_ri eax 2146435072 s
  if cc_above s then L_2TAG_PACKET_11_0_2 cpu s else
  let s := cmpl_ri edx 0 s
  if cc_notEqual s then L_2TAG_PACKET_11_0_2 cpu s else
  let s := movl_rm eax 12 s
  let s := cmpl_ri eax 2146435072 s
  if cc_notEqual s then L_2TAG_PACKET_12_0_2 cpu s else
  let s := movsd_xe xmm0 Tbl.INF 0 s
  B1_5 cpu s

/-- Code following `bind(B1_3)` (source line 407). -/
def B1_3 (cpu : Cpu) (s : Machine) : Machine :=
  let s := bind Label.B1_3 s
  let s := movq_xm xmm0 16 s
  B1_5 cpu s

/-- Code following `bind(L_2TAG_PACKET_6_0_2)` (source line 404). -/
def L_2TAG_PACKET_6_0_2 (cpu : Cpu) (s : Machine) : Machine :=
  let s := bind Label.L_2TAG_PACKET_6_0_2 s
  let s := movq_mx 16 xmm0 s
  B1_3 cpu s

/-- Code following `bind(L_2TAG_PACKET_10_0_2)` (source line 368). -/
def L_2TAG_PACKET_10_0_2 (cpu : Cpu) (s : Machine) : Machine :=
  let s := bind Label.L_2TAG_PACKET_10_0_2 s
  let s := movsd_xe xmm0 Tbl.XMIN 0 s
  let s := mulsd xmm0 xmm0 s
  let s := movl_mi 0 15 s
  L_2TAG_PACKET_6_0_2 cpu s

/-- Code following `bind(L_2TAG_PACKET_7_0_2)` (source line 364). -/
def L_2TAG_PACKET_7_0_2 (cpu : Cpu) (s : Machine) : Machine :=
  let s := bind Label.L_2TAG_PACKET_7_0_2 s
  let s := movl_mi 0 14 s
  L_2TAG_PACKET_6_0_2 cpu s

/-- Code following `bind(L_2TAG_PACKET_8_0_2)` (source line 355). -/
def L_2TAG_PACKET_8_0_2 (cpu : Cpu) (s : Machine) : Machine :=
  let s := bind Label.L_2TAG_PACKET_8_0_2 s
  let s := cmpl_ri eax 2146435072 s
  if cc_aboveEqual s then L_2TAG_PACKET_9_0_2 cpu s else
  let s := movl_rm eax 12 s
  let s := cmpl_ri eax 0x80000000 /- INT_MIN -/ s
  if cc_aboveEqual s then L_2TAG_PACKET_10_0_2 cpu s else
  let s := movsd_xe xmm0 Tbl.XMAX 0 s
  let s := mulsd xmm0 xmm0 s
  L_2TAG_PACKET_7_0_2 cpu s

/-- Code following `bind(L_2TAG_PACKET_0_0_2)` (source line 395). -/
def L_2TAG_PACKET_0_0_2 (cpu : Cpu) (s : Machine) : Machine :=
  let s := bind Label.L_2TAG_PACKET_0_0_2 s
  let s := movl_rm eax 12 s
  let s := andl_ri eax 2147483647 s
  let s := cmpl_ri eax 1083179008 s
  if cc_aboveEqual s then L_2TAG_PACKET_8_0_2 cpu s else
  let s := movsd_mx 8 xmm0 s
  let s := addsd_xe xmm0 Tbl.ONE_val 0 s
  B1_5 cpu s

/-- Code following `bind(L_2TAG_PACKET_2_0_2)` (source line 348). -/
def L_2TAG_PACKET_2_0_2 (cpu : Cpu) (s : Machine) : Machine :=
  let s := bind Label.L_2TAG_PACKET_2_0_2 s
  let s := paddd xmm3 xmm6 s
  let s := addpd xmm0 xmm2 s
  let s := mulsd xmm0 xmm3 s
  let s := movl_mi 0 15 s
  L_2TAG_PACKET_6_0_2 cpu s

/-- Code following `bind(L_2TAG_PACKET_3_0_2)` (source line 339). -/
def L_2TAG_PACKET_3_0_2 (cpu : Cpu) (s : Machine) : Machine :=
  let s := bind Label.L_2TAG_PACKET_3_0_2 s
  let s := addsd xmm0 xmm4 s
  let s := mulsd xmm0 xmm3 s
  let s := pextrw ecx xmm0 3 s
  let s := andl_ri ecx 32752 s
  let s := cmpl_ri ecx 32752 s
  if cc_aboveEqual s then L_2TAG_PACKET_7_0_2 cpu s else
  B1_5 cpu s

/-- Code following `bind(L_2TAG_PACKET_4_0_2)` (source line 334). -/
def L_2TAG_PACKET_4_0_2 (cpu : Cpu) (s : Machine) : Machine :=
  let s := bind Label.L_2TAG_PACKET_4_0_2 s
  let s := addsd xmm0 xmm4 s
  let s := mulsd xmm0 xmm3 s
  B1_5 cpu s

/-- Code following `bind(L_2TAG_PACKET_5_0_2)` (source line 318). -/
def L_2TAG_PACKET_5_0_2 (cpu : Cpu) (s : Machine) : Machine :=
  let s := bind Label.L_2TAG_PACKET_5_0_2 s
  let s := mulsd xmm6 xmm3 s
  let s := mulsd xmm4 xmm3 s
  let s := movdqu_xx xmm0 xmm6 s
  let s := pxor xmm6 xmm4 s
  let s := psrad xmm6 31 s
  let s := pshufd xmm6 xmm6 85 s
  let s := psllq xmm0 1 s
  let s := psrlq xmm0 1 s
  let s := pxor xmm0 xmm6 s
  let s := psrlq xmm6 63 s
  let s := paddq xmm0 xmm6 s
  let s := paddq xmm0 xmm4 s
  let s := movl_mi 0 15 s
  L_2TAG_PACKET_6_0_2 cpu s

/-- Code following `bind(L_2TAG_PACKET_1_0_2)` (source line 282). -/
def L_2TAG_PACKET_1_0_2 (cpu : Cpu) (s : Machine) : Machine :=
  let s := bind Label.L_2TAG_PACKET_1_0_2 s
  let s := xorpd xmm3 xmm3 s
  let s := movdqu_xe xmm4 Tbl.ALLONES 0 s
  let s := movl_ri edx 0xFFFFFC02 /- -1022 -/ s
  let s := subl_rr edx eax s
  let s := movdl_xr xmm5 edx s
  let s := psllq_xx xmm4 xmm5 s
  let s := movl_rr ecx eax s
  let s := sarl eax 1 s
  let s := pinsrw xmm3 eax 3 s
  let s := movdqu_xe xmm6 Tbl.ebias 0 s
  let s := psllq xmm3 4 s
  let s := psubd xmm2 xmm3 s
  let s := mulsd xmm0 xmm2 s
  let s := cmpl_ri edx 52 s
  if cc_greater s then L_2TAG_PACKET_2_0_2 cpu s else
  let s := pand xmm4 xmm2 s
  let s := paddd xmm3 xmm6 s
  let s := subsd xmm2 xmm4 s
  let s := addsd xmm0 xmm2 s
  let s := cmpl_ri ecx 1023 s
  if cc_greaterEqual s then L_2TAG_PACKET_3_0_2 cpu s else
  let s := pextrw ecx xmm0 3 s
  let s := andl_ri ecx 32768 s
  let s := orl_rr edx ecx s
  let s := cmpl_ri edx 0 s
  if cc_equal s then L_2TAG_PACKET_4_0_2 cpu s else
  let s := movapd xmm6 xmm0 s
  let s := addsd xmm0 xmm4 s
  let s := mulsd xmm0 xmm3 s
  let s := pextrw ecx xmm0 3 s
  let s := andl_ri ecx 32752 s
  let s := cmpl_ri ecx 0 s
  if cc_equal s then L_2TAG_PACKET_5_0_2 cpu s else
  B1_5 cpu s

/-- Code following `bind(start)` (source line 220). -/
def start (cpu : Cpu) (s : Machine) : Machine :=
  let s := bind Label.start s
  let s := subq_rsp 24 s
  let s := movsd_mx 8 xmm0 s
  let s := unpcklpd xmm0 xmm0 s
  let s := movdqu_xe xmm1 Tbl.cv 0 s
  let s := movdqu_xe xmm6 Tbl.shifter 0 s
  let s := movdqu_xe xmm2 Tbl.cv 16 s
  let s := movdqu_xe xmm3 Tbl.cv 32 s
  let s := pextrw eax xmm0 3 s
  let s := andl_ri eax 32767 s
  let s := movl_ri edx 16527 s
  let s := subl_rr edx eax s
  let s := subl_ri eax 15504 s
  let s := orl_rr edx eax s
  let s := cmpl_ri edx 0x80000000 /- INT_MIN -/ s
  if cc_aboveEqual s then L_2TAG_PACKET_0_0_2 cpu s else
  let s := mulpd xmm1 xmm0 s
  let s := addpd xmm1 xmm6 s
  let s := movapd xmm7 xmm1 s
  let s := subpd xmm1 xmm6 s
  let s := mulpd xmm2 xmm1 s
  let s := movdqu_xe xmm4 Tbl.cv 64 s
  let s := mulpd xmm3 xmm1 s
  let s := movdqu_xe xmm5 Tbl.cv 80 s
  let s := subpd xmm0 xmm2 s
  let s := movdl_rx eax xmm7 s
  let s := movl_rr ecx eax s
  let s := andl_ri ecx 63 s
  let s := shll_ri ecx 4 s
  let s := sarl eax 6 s
  let s := movl_rr edx eax s
  let s := movdqu_xe xmm6 Tbl.mmask 0 s
  let s := pand xmm7 xmm6 s
  let s := movdqu_xe xmm6 Tbl.bias 0 s
  let s := paddq xmm7 xmm6 s
  let s := psllq xmm7 46 s
  let s := subpd xmm0 xmm3 s
  let s := lea tmp4 Tbl.Tbl_addr s
  let s := movdqu_xi xmm2 ecx tmp4 1 0 s
  let s := mulpd xmm4 xmm0 s
  let s := movapd xmm6 xmm0 s
  let s := movapd xmm1 xmm0 s
  let s := mulpd xmm6 xmm6 s
  let s := mulpd xmm0 xmm6 s
  let s := addpd xmm5 xmm4 s
  let s := mulsd xmm0 xmm6 s
  let s := mulpd_xe xmm6 Tbl.cv 48 s
  let s := addsd xmm1 xmm2 s
  let s := unpckhpd xmm2 xmm2 s
  let s := mulpd xmm0 xmm5 s
  let s := addsd xmm1 xmm0 s
  let s := por xmm2 xmm7 s
  let s := unpckhpd xmm0 xmm0 s
  let s := addsd xmm0 xmm1 s
  let s := addsd xmm0 xmm6 s
  let s := addl_ri edx 894 s
  let s := cmpl_ri edx 1916 s
  if cc_above s then L_2TAG_PACKET_1_0_2 cpu s else
  let s := mulsd xmm0 xmm2 s
  let s := addsd xmm0 xmm2 s
  B1_5 cpu s

/-- Code emitted before the first label (source line 199). -/
def entry (cpu : Cpu) (s : Machine) : Machine :=
  let s := bind Label.entry s
  start cpu s

end fast_exp

end MacroAssembler

namespace MacroAssembler
open XReg GReg

namespace fast_log

/-- Code following `bind(B1_5)` (source line 1006). -/
def B1_5 (cpu : Cpu) (s : Machine) : Machine :=
  let s := bind Label.B1_5 s
  let s := addq_rsp 24 s
  s

/-- Code following `bind(B1_3)` (source line 1003). -/
def B1_3 (cpu : Cpu) (s : Machine) : Machine :=
  let s := bind Label.B1_3 s
  let s := movq_xm xmm0 8 s
  B1_5 cpu s

/-- Code following `bind(L_2TAG_PACKET_8_0_2)` (source line 1000). -/
def L_2TAG_PACKET_8_0_2 (cpu : Cpu) (s : Machine) : Machine :=
  let s := bind Label.L_2TAG_PACKET_8_0_2 s
  let s := movq_mx 8 xmm0 s
  B1_3 cpu s

/-- Code following `bind(L_2TAG_PACKET_7_0_2)` (source line 992). -/
def L_2TAG_PACKET_7_0_2 (cpu : Cpu) (s : Machine) : Machine :=
  let s := bind Label.L_2TAG_PACKET_7_0_2 s
  let s := xorpd xmm1 xmm1 s
  let s := xorpd xmm0 xmm0 s
  let s := movl_ri eax 49136 s
  let s := pinsrw xmm0 eax 3 s
  let s := divsd xmm0 xmm1 s
  let s := movl_mi 16 2 s
  L_2TAG_PACKET_8_0_2 cpu s

/-- Code following `bind(L_2TAG_PACKET_6_0_2)` (source line 984). -/
def L_2TAG_PACKET_6_0_2 (cpu : Cpu) (s : Machine) : Machine :=
  let s := bind Label.L_2TAG_PACKET_6_0_2 s
  let s := xorpd xmm1 xmm1 s
  let s := xorpd xmm0 xmm0 s
  let s := movl_ri eax 32752 s
  let s := pinsrw xmm1 eax 3 s
  let s := mulsd xmm0 xmm1 s
  let s := movl_mi 16 3 s
  L_2TAG_PACKET_8_0_2 cpu s

/-- Code following `bind(L_2TAG_PACKET_4_0_2)` (source line 938). -/
def L_2TAG_PACKET_4_0_2 (cpu : Cpu) (s : Machine) : Machine :=
  let s := bind Label.L_2TAG_PACKET_4_0_2 s
  let s := addsd xmm0 xmm0 s
  B1_5 cpu s

/-- Code following `bind(L_2TAG_PACKET_5_0_2)` (source line 942). -/
def L_2TAG_PACKET_5_0_2 (cpu : Cpu) (s : Machine) : Machine :=
  let s := bind Label.L_2TAG_PACKET_5_0_2 s
  if cc_above s then L_2TAG_PACKET_4_0_2 cpu s else
  let s := cmpl_ri edx 0 s
  if cc_above s then L_2TAG_PACKET_4_0_2 cpu s else
  L_2TAG_PACKET_6_0_2 cpu s

/-- Code following `bind(L_2TAG_PACKET_2_0_2)` (source line 973). -/
def L_2TAG_PACKET_2_0_2 (cpu : Cpu) (s : Machine) : Machine :=
  let s := bind Label.L_2TAG_PACKET_2_0_2 s
  let s := movdl_rx edx xmm1 s
  let s := psrlq xmm1 32 s
  let s := movdl_rx ecx xmm1 s
  let s := addl_rr ecx ecx s
  let s := cmpl_ri ecx 0xFFE00000 /- -2097152 -/ s
  if cc_aboveEqual s then L_2TAG_PACKET_5_0_2 cpu s else
  let s := orl_rr edx ecx s
  let s := cmpl_ri edx 0 s
  if cc_equal s then L_2TAG_PACKET_7_0_2 cpu s else
  L_2TAG_PACKET_6_0_2 cpu s

/-- Code following `bind(L_2TAG_PACKET_1_0_2)` (source line 871). -/
def L_2TAG_PACKET_1_0_2 (cpu : Cpu) (s : Machine) : Machine :=
  let s := bind Label.L_2TAG_PACKET_1_0_2 s
  let s := paddd xmm0 xmm4 s
  let s := por xmm1 xmm3 s
  let s := movdl_rx edx xmm0 s
  let s := psllq xmm0 29 s
  let s := pand xmm5 xmm1 s
  let s := pand xmm0 xmm6 s
  let s := subsd xmm1 xmm5 s
  let s := mulpd xmm5 xmm0 s
  let s := andl_ri eax 32752 s
  let s := subl_rr eax ecx s
  let s := cvtsi2sdl xmm7 eax s
  let s := mulsd xmm1 xmm0 s
  let s := movq_xe xmm6 Tbl.log2 0 s
  let s := movdqu_xe xmm3 Tbl.coeff 0 s
  let s := subsd xmm5 xmm2 s
  let s := andl_ri edx 16711680 s
  let s := shrl edx 12 s
  let s := movdqu_xi xmm0 tmp2 edx 1 0 s
  let s := movdqu_xe xmm4 Tbl.coeff 16 s
  let s := addsd xmm1 xmm5 s
  let s := movdqu_xe xmm2 Tbl.coeff 32 s
  let s := mulsd xmm6 xmm7 s
  let s := if cpu.supports_sse3 then (movddup xmm5 xmm1 s) else (movlhps xmm5 xmm5 (movdqu_xx xmm5 xmm1 s))
  let s := mulsd_xe xmm7 Tbl.log2 8 s
  let s := mulsd xmm3 xmm1 s
  let s := addsd xmm0 xmm6 s
  let s := mulpd xmm4 xmm5 s
  let s := mulpd xmm5 xmm5 s
  let s := if cpu.supports_sse3 then (movddup xmm6 xmm0 s) else (movlhps xmm6 xmm6 (movdqu_xx xmm6 xmm0 s))
  let s := addsd xmm0 xmm1 s
  let s := addpd xmm4 xmm2 s
  let s := mulpd xmm3 xmm5 s
  let s := subsd xmm6 xmm0 s
  let s := mulsd xmm4 xmm1 s
  let s := pshufd xmm2 xmm0 238 s
  let s := addsd xmm1 xmm6 s
  let s := mulsd xmm5 xmm5 s
  let s := addsd xmm7 xmm2 s
  let s := addpd xmm4 xmm3 s
  let s := addsd xmm1 xmm7 s
  let s := mulpd xmm4 xmm5 s
  let s := addsd xmm1 xmm4 s
  let s := pshufd xmm5 xmm4 238 s
  let s := addsd xmm1 xmm5 s
  let s := addsd xmm0 xmm1 s
  B1_5 cpu s

/-- Code following `bind(L_2TAG_PACKET_3_0_2)` (source line 948). -/
def L_2TAG_PACKET_3_0_2 (cpu : Cpu) (s : Machine) : Machine :=
  let s := bind Label.L_2TAG_PACKET_3_0_2 s
  let s := xorpd xmm1 xmm1 s
  let s := addsd xmm1 xmm0 s
  let s := movdl_rx edx xmm1 s
  let s := psrlq xmm1 32 s
  let s := movdl_rx ecx xmm1 s
  let s := orl_rr edx ecx s
  let s := cmpl_ri edx 0 s
  if cc_equal s then L_2TAG_PACKET_7_0_2 cpu s else
  let s := xorpd xmm1 xmm1 s
  let s := movl_ri eax 18416 s
  let s := pinsrw xmm1 eax 3 s
  let s := mulsd xmm0 xmm1 s
  let s := movdqu_xx xmm1 xmm0 s
  let s := pextrw eax xmm0 3 s
  let s := por xmm0 xmm2 s
  let s := psrlq xmm0 27 s
  let s := movl_ri ecx 18416 s
  let s := psrld xmm0 2 s
  let s := rcpps cpu.rcp xmm0 xmm0 s
  let s := psllq xmm1 12 s
  let s := pshufd xmm6 xmm5 228 s
  let s := psrlq xmm1 12 s
  L_2TAG_PACKET_1_0_2 cpu s

/-- Code following `bind(L_2TAG_PACKET_0_0_2)` (source line 929). -/
def L_2TAG_PACKET_0_0_2 (cpu : Cpu) (s : Machine) : Machine :=
  let s := bind Label.L_2TAG_PACKET_0_0_2 s
  let s := movq_xm xmm0 0 s
  let s := movq_xm xmm1 0 s
  let s := addl_ri eax 16 s
  let s := cmpl_ri eax 32768 s
  if cc_aboveEqual s then L_2TAG_PACKET_2_0_2 cpu s else
  let s := cmpl_ri eax 16 s
  if cc_below s then L_2TAG_PACKET_3_0_2 cpu s else
  L_2TAG_PACKET_4_0_2 cpu s

/-- Code following `bind(start)` (source line 845). -/
def start (cpu : Cpu) (s : Machine) : Machine :=
  let s := bind Label.start s
  let s := subq_rsp 24 s
  let s := movsd_mx 0 xmm0 s
  let s := mov64 eax 0x3ff0000000000000 s
  let s := movdq_xr xmm2 eax s
  let s := mov64 edx 0x77f0000000000000 s
  let s := movdq_xr xmm3 edx s
  let s := movl_ri ecx 32768 s
  let s := movdl_xr xmm4 ecx s
  let s := mov64 tmp1 0xffffe00000000000 s
  let s := movdq_xr xmm5 tmp1 s
  let s := movdqu_xx xmm1 xmm0 s
  let s := pextrw eax xmm0 3 s
  let s := por xmm0 xmm2 s
  let s := movl_ri ecx 16352 s
  let s := psrlq xmm0 27 s
  let s := lea tmp2 Tbl.L_tbl s
  let s := psrld xmm0 2 s
  let s := rcpps cpu.rcp xmm0 xmm0 s
  let s := psllq xmm1 12 s
  let s := pshufd xmm6 xmm5 228 s
  let s := psrlq xmm1 12 s
  let s := subl_ri eax 16 s
  let s := cmpl_ri eax 32736 s
  if cc_aboveEqual s then L_2TAG_PACKET_0_0_2 cpu s else
  L_2TAG_PACKET_1_0_2 cpu s

/-- Code emitted before the first label (source line 833). -/
def entry (cpu : Cpu) (s : Machine) : Machine :=
  let s := bind Label.entry s
  start cpu s

end fast_log

end MacroAssembler

namespace MacroAssembler
open XReg GReg

namespace fast_pow

/-- Code following `bind(B1_5)` (source line 3109). -/
def B1_5 (cpu : Cpu) (s : Machine) : Machine :=
  let s := bind Label.B1_5 s
  let s := addq_rsp 40 s
  s

/-- Code following `bind(L_2TAG_PACKET_56_0_2)` (source line 3107). -/
def L_2TAG_PACKET_56_0_2 (cpu : Cpu) (s : Machine) : Machine :=
  let s := bind Label.L_2TAG_PACKET_56_0_2 s
  B1_5 cpu s

/-- Code following `bind(B1_3)` (source line 3104). -/
def B1_3 (cpu : Cpu) (s : Machine) : Machine :=
  let s := bind Label.B1_3 s
  let s := movq_xm xmm0 24 s
  L_2TAG_PACKET_56_0_2 cpu s

/-- Code following `bind(L_2TAG_PACKET_17_0_2)` (source line 3101). -/
def L_2TAG_PACKET_17_0_2 (cpu : Cpu) (s : Machine) : Machine :=
  let s := bind Label.L_2TAG_PACKET_17_0_2 s
  let s := movq_mx 24 xmm0 s
  B1_3 cpu s

/-- Code following `bind(L_2TAG_PACKET_44_0_2)` (source line 2798). -/
def L_2TAG_PACKET_44_0_2 (cpu : Cpu) (s : Machine) : Machine :=
  let s := bind Label.L_2TAG_PACKET_44_0_2 s
  let s := movl_ri eax 16368 s
  let s := xorpd xmm1 xmm1 s
  let s := pinsrw xmm1 eax 3 s
  let s := divsd xmm1 xmm0 s
  let s := movdqu_xx xmm0 xmm1 s
  let s := movl_mi 0 27 s
  L_2TAG_PACKET_17_0_2 cpu s

/-- Code following `bind(L_2TAG_PACKET_22_0_2)` (source line 2697). -/
def L_2TAG_PACKET_22_0_2 (cpu : Cpu) (s : Machine) : Machine :=
  let s := bind Label.L_2TAG_PACKET_22_0_2 s
  let s := xorpd xmm0 xmm0 s
  B1_5 cpu s

/-- Code following `bind(L_2TAG_PACKET_41_0_2)` (source line 2793). -/
def L_2TAG_PACKET_41_0_2 (cpu : Cpu) (s : Machine) : Machine :=
  let s := bind Label.L_2TAG_PACKET_41_0_2 s
  let s := testl_ri ecx 0x80000000 /- INT_MIN -/ s
  if cc_equal s then L_2TAG_PACKET_22_0_2 cpu s else
  let s := xorpd xmm0 xmm0 s
  L_2TAG_PACKET_44_0_2 cpu s

/-- Code following `bind(L_2TAG_PACKET_43_0_2)` (source line 2781). -/
def L_2TAG_PACKET_43_0_2 (cpu : Cpu) (s : Machine) : Machine :=
  let s := bind Label.L_2TAG_PACKET_43_0_2 s
  let s := movq_xm xmm0 8 s
  let s := testl_ri ecx 0x80000000 /- INT_MIN -/ s
  if cc_notEqual s then L_2TAG_PACKET_44_0_2 cpu s else
  B1_5 cpu s

/-- Code following `bind(L_2TAG_PACKET_42_0_2)` (source line 2787). -/
def L_2TAG_PACKET_42_0_2 (cpu : Cpu) (s : Machine) : Machine :=
  let s := bind Label.L_2TAG_PACKET_42_0_2 s
  let s := movq_xm xmm1 16 s
  let s := movdl_rx eax xmm1 s
  let s := testl_ri eax 1 s
  if cc_notEqual s then L_2TAG_PACKET_43_0_2 cpu s else
  L_2TAG_PACKET_41_0_2 cpu s

/-- Code following `bind(L_2TAG_PACKET_39_0_2)` (source line 2732). -/
def L_2TAG_PACKET_39_0_2 (cpu : Cpu) (s : Machine) : Machine :=
  let s := bind Label.L_2TAG_PACKET_39_0_2 s
  let s := xorpd xmm0 xmm0 s
  let s := movl_ri eax 16368 s
  let s := pinsrw xmm0 eax 3 s
  let s := movl_mi 0 26 s
  L_2TAG_PACKET_17_0_2 cpu s

/-- Code following `bind(L_2TAG_PACKET_40_0_2)` (source line 2752). -/
def L_2TAG_PACKET_40_0_2 (cpu : Cpu) (s : Machine) : Machine :=
  let s := bind Label.L_2TAG_PACKET_40_0_2 s
  let s := movdl_rx eax xmm1 s
  let s := psrlq xmm1 32 s
  let s := movdl_rx edx xmm1 s
  let s := movl_rr ecx edx s
  let s := addl_rr edx edx s
  let s := orl_rr eax edx s
  if cc_equal s then L_2TAG_PACKET_39_0_2 cpu s else
  let s := shrl edx 21 s
  let s := cmpl_ri edx 1075 s
  if cc_above s then L_2TAG_PACKET_41_0_2 cpu s else
  if cc_equal s then L_2TAG_PACKET_42_0_2 cpu s else
  let s := cmpl_ri edx 1023 s
  if cc_below s then L_2TAG_PACKET_41_0_2 cpu s else
  let s := movq_xm xmm1 16 s
  let s := movl_ri eax 17208 s
  let s := xorpd xmm3 xmm3 s
  let s := pinsrw xmm3 eax 3 s
  let s := movdqu_xx xmm4 xmm3 s
  let s := addsd xmm3 xmm1 s
  let s := subsd xmm4 xmm3 s
  let s := addsd xmm1 xmm4 s
  let s := pextrw eax xmm1 3 s
  let s := andl_ri eax 32752 s
  if cc_notEqual s then L_2TAG_PACKET_41_0_2 cpu s else
  let s := movdl_rx eax xmm3 s
  let s := andl_ri eax 1 s
  if cc_equal s then L_2TAG_PACKET_41_0_2 cpu s else
  L_2TAG_PACKET_43_0_2 cpu s

/-- Code following `bind(L_2TAG_PACKET_18_0_2)` (source line 2443). -/
def L_2TAG_PACKET_18_0_2 (cpu : Cpu) (s : Machine) : Machine :=
  let s := bind Label.L_2TAG_PACKET_18_0_2 s
  let s := movq_xm xmm0 16 s
  let s := addpd xmm0 xmm0 s
  B1_5 cpu s

/-- Code following `bind(L_2TAG_PACKET_9_0_2)` (source line 2739). -/
def L_2TAG_PACKET_9_0_2 (cpu : Cpu) (s : Machine) : Machine :=
  let s := bind Label.L_2TAG_PACKET_9_0_2 s
  let s := movq_xm xmm1 16 s
  let s := movdqu_xx xmm2 xmm1 s
  let s := pextrw eax xmm1 3 s
  let s := andl_ri eax 32752 s
  let s := cmpl_ri eax 32752 s
  if cc_notEqual s then L_2TAG_PACKET_40_0_2 cpu s else
  let s := movdl_rx eax xmm2 s
  let s := psrlq xmm2 20 s
  let s := movdl_rx edx xmm2 s
  let s := orl_rr eax edx s
  if cc_notEqual s then L_2TAG_PACKET_18_0_2 cpu s else
  L_2TAG_PACKET_40_0_2 cpu s

/-- Code following `bind(L_2TAG_PACKET_37_0_2)` (source line 2726). -/
def L_2TAG_PACKET_37_0_2 (cpu : Cpu) (s : Machine) : Machine :=
  let s := bind Label.L_2TAG_PACKET_37_0_2 s
  let s := xorpd xmm0 xmm0 s
  let s := movl_ri eax 16368 s
  let s := pinsrw xmm0 eax 3 s
  B1_5 cpu s

/-- Code following `bind(L_2TAG_PACKET_48_0_2)` (source line 2844). -/
def L_2TAG_PACKET_48_0_2 (cpu : Cpu) (s : Machine) : Machine :=
  let s := bind Label.L_2TAG_PACKET_48_0_2 s
  let s := movl_mi 0 25 s
  L_2TAG_PACKET_17_0_2 cpu s

/-- Code following `bind(L_2TAG_PACKET_50_0_2)` (source line 2874). -/
def L_2TAG_PACKET_50_0_2 (cpu : Cpu) (s : Machine) : Machine :=
  let s := bind Label.L_2TAG_PACKET_50_0_2 s
  L_2TAG_PACKET_48_0_2 cpu s

/-- Code following `bind(L_2TAG_PACKET_49_0_2)` (source line 2864). -/
def L_2TAG_PACKET_49_0_2 (cpu : Cpu) (s : Machine) : Machine :=
  let s := bind Label.L_2TAG_PACKET_49_0_2 s
  let s := movdl_xr xmm0 eax s
  let s := psllq xmm0 32 s
  let s := pand xmm0 xmm5 s
  let s := subsd xmm5 xmm0 s
  let s := addsd xmm5 xmm1 s
  let s := mulsd xmm0 xmm4 s
  let s := mulsd xmm5 xmm4 s
  let s := addsd xmm0 xmm5 s
  L_2TAG_PACKET_50_0_2 cpu s

/-- Code following `bind(L_2TAG_PACKET_13_0_2)` (source line 2848). -/
def L_2TAG_PACKET_13_0_2 (cpu : Cpu) (s : Machine) : Machine :=
  let s := bind Label.L_2TAG_PACKET_13_0_2 s
  let s := pextrw ecx xmm5 3 s
  let s := pextrw edx xmm4 3 s
  let s := movl_ri eax 0xFFFFFFFF /- -1 -/ s
  let s := andl_ri ecx 32752 s
  let s := subl_ri ecx 16368 s
  let s := andl_ri edx 32752 s
  let s := addl_rr edx ecx s
  let s := movl_ri ecx 0xFFFFFFE1 /- -31 -/ s
  let s := sarl edx 4 s
  let s := subl_rr ecx edx s
  if cc_lessEqual s then L_2TAG_PACKET_49_0_2 cpu s else
  let s := cmpl_ri ecx 20 s
  if cc_above s then L_2TAG_PACKET_50_0_2 cpu s else
  let s := shll_cl eax s
  L_2TAG_PACKET_49_0_2 cpu s

/-- Code following `bind(L_2TAG_PACKET_14_0_2)` (source line 2830). -/
def L_2TAG_PACKET_14_0_2 (cpu : Cpu) (s : Machine) : Machine :=
  let s := bind Label.L_2TAG_PACKET_14_0_2 s
  let s := movl_mi 0 24 s
  L_2TAG_PACKET_17_0_2 cpu s

/-- Code following `bind(L_2TAG_PACKET_55_0_2)` (source line 3096). -/
def L_2TAG_PACKET_55_0_2 (cpu : Cpu) (s : Machine) : Machine :=
  let s := bind Label.L_2TAG_PACKET_55_0_2 s
  let s := movl_ri edx 32752 s
  let s := pinsrw xmm0 edx 3 s
  B1_5 cpu s

/-- Code following `bind(L_2TAG_PACKET_54_0_2)` (source line 3085). -/
def L_2TAG_PACKET_54_0_2 (cpu : Cpu) (s : Machine) : Machine :=
  let s := bind Label.L_2TAG_PACKET_54_0_2 s
  let s := pextrw eax xmm0 3 s
  let s := andl_ri eax 32752 s
  let s := pextrw edx xmm1 3 s
  let s := xorpd xmm0 xmm0 s
  let s := subl_ri eax 16368 s
  let s := xorl_rr eax edx s
  let s := testl_ri eax 32768 s
  if cc_equal s then L_2TAG_PACKET_55_0_2 cpu s else
  B1_5 cpu s

/-- Code following `bind(L_2TAG_PACKET_53_0_2)` (source line 3065). -/
def L_2TAG_PACKET_53_0_2 (cpu : Cpu) (s : Machine) : Machine :=
  let s := bind Label.L_2TAG_PACKET_53_0_2 s
  let s := movq_xm xmm1 16 s
  let s := movdl_rx edx xmm1 s
  let s := movdqu_xx xmm3 xmm1 s
  let s := psrlq xmm3 20 s
  let s := movdl_rx ecx xmm3 s
  let s := orl_rr ecx edx s
  if cc_equal s then L_2TAG_PACKET_54_0_2 cpu s else
  let s := addsd xmm1 xmm1 s
  let s := movdqu_xx xmm0 xmm1 s
  B1_5 cpu s

/-- Code following `bind(L_2TAG_PACKET_45_0_2)` (source line 3051). -/
def L_2TAG_PACKET_45_0_2 (cpu : Cpu) (s : Machine) : Machine :=
  let s := bind Label.L_2TAG_PACKET_45_0_2 s
  let s := movq_xm xmm0 8 s
  let s := xorpd xmm2 xmm2 s
  let s := movl_ri eax 49136 s
  let s := pinsrw xmm2 eax 3 s
  let s := addsd xmm2 xmm0 s
  let s := pextrw eax xmm2 3 s
  let s := cmpl_ri eax 0 s
  if cc_notEqual s then L_2TAG_PACKET_53_0_2 cpu s else
  let s := xorpd xmm0 xmm0 s
  let s := movl_ri eax 32760 s
  let s := pinsrw xmm0 eax 3 s
  B1_5 cpu s

/-- Code following `bind(L_2TAG_PACKET_46_0_2)` (source line 2834). -/
def L_2TAG_PACKET_46_0_2 (cpu : Cpu) (s : Machine) : Machine :=
  let s := bind Label.L_2TAG_PACKET_46_0_2 s
  let s := movl_ri eax 16 s
  let s := pinsrw xmm0 eax 3 s
  let s := mulsd xmm0 xmm0 s
  let s := testl_ri tmp1 0x80000000 /- INT_MIN -/ s
  if cc_equal s then L_2TAG_PACKET_48_0_2 cpu s else
  let s := mov64 tmp2 0x8000000000000000 s
  let s := movdq_xr xmm2 tmp2 s
  let s := xorpd xmm0 xmm2 s
  L_2TAG_PACKET_48_0_2 cpu s

/-- Code following `bind(L_2TAG_PACKET_47_0_2)` (source line 2822). -/
def L_2TAG_PACKET_47_0_2 (cpu : Cpu) (s : Machine) : Machine :=
  let s := bind Label.L_2TAG_PACKET_47_0_2 s
  let s := movl_ri eax 32736 s
  let s := pinsrw xmm0 eax 3 s
  let s := shrl tmp1 16 s
  let s := orl_rr eax tmp1 s
  let s := pinsrw xmm1 eax 3 s
  let s := mulsd xmm0 xmm1 s
  L_2TAG_PACKET_14_0_2 cpu s

/-- Code following `bind(L_2TAG_PACKET_12_0_2)` (source line 2807). -/
def L_2TAG_PACKET_12_0_2 (cpu : Cpu) (s : Machine) : Machine :=
  let s := bind Label.L_2TAG_PACKET_12_0_2 s
  let s := movq_xm xmm2 8 s
  let s := movq_xm xmm6 16 s
  let s := pextrw eax xmm2 3 s
  let s := pextrw edx xmm6 3 s
  let s := movl_ri ecx 32752 s
  let s := andl_rr ecx edx s
  let s := cmpl_ri ecx 32752 s
  if cc_equal s then L_2TAG_PACKET_45_0_2 cpu s else
  let s := andl_ri eax 32752 s
  let s := subl_ri eax 16368 s
  let s := xorl_rr edx eax s
  let s := testl_ri edx 32768 s
  if cc_notEqual s then L_2TAG_PACKET_46_0_2 cpu s else
  L_2TAG_PACKET_47_0_2 cpu s

/-- Code following `bind(L_2TAG_PACKET_38_0_2)` (source line 2724). -/
def L_2TAG_PACKET_38_0_2 (cpu : Cpu) (s : Machine) : Machine :=
  let s := bind Label.L_2TAG_PACKET_38_0_2 s
  L_2TAG_PACKET_37_0_2 cpu s

/-- Code following `bind(L_2TAG_PACKET_11_0_2)` (source line 2701). -/
def L_2TAG_PACKET_11_0_2 (cpu : Cpu) (s : Machine) : Machine :=
  let s := bind Label.L_2TAG_PACKET_11_0_2 s
  let s := addl_ri eax 384 s
  let s := cmpl_ri eax 0 s
  if cc_less s then L_2TAG_PACKET_38_0_2 cpu s else
  let s := mulsd xmm5 xmm1 s
  let s := addsd xmm0 xmm7 s
  let s := shrl tmp1 31 s
  let s := addpd xmm3 xmm0 s
  let s := pshufd xmm0 xmm3 238 s
  let s := addsd xmm3 xmm0 s
  let s := lea tmp4 Tbl.log2_pow s
  let s := movq_xi xmm4 tmp4 tmp1 8 0 s
  let s := mulsd xmm1 xmm3 s
  let s := xorpd xmm0 xmm0 s
  let s := movl_ri eax 16368 s
  let s := shll_ri tmp1 15 s
  let s := orl_rr eax tmp1 s
  let s := pinsrw xmm0 eax 3 s
  let s := addsd xmm5 xmm1 s
  let s := mulsd xmm5 xmm4 s
  let s := addsd xmm0 xmm5 s
  B1_5 cpu s

/-- Code following `bind(L_2TAG_PACKET_5_0_2)` (source line 2331). -/
def L_2TAG_PACKET_5_0_2 (cpu : Cpu) (s : Machine) : Machine :=
  let s := bind Label.L_2TAG_PACKET_5_0_2 s
  let s := cmpl_ri eax 0 s
  if cc_less s then L_2TAG_PACKET_11_0_2 cpu s else
  let s := cmpl_ri eax 752 s
  if cc_aboveEqual s then L_2TAG_PACKET_12_0_2 cpu s else
  let s := addsd xmm0 xmm7 s
  let s := movq_xe xmm2 Tbl.HALFMASK 0 s
  let s := addpd xmm3 xmm0 s
  let s := xorpd xmm6 xmm6 s
  let s := movl_ri eax 17080 s
  let s := pinsrw xmm6 eax 3 s
  let s := pshufd xmm0 xmm3 238 s
  let s := addsd xmm0 xmm3 s
  let s := movdqu_xx xmm3 xmm5 s
  let s := addsd xmm5 xmm0 s
  let s := movdqu_xx xmm4 xmm2 s
  let s := subsd xmm3 xmm5 s
  let s := movdqu_xx xmm7 xmm5 s
  let s := pand xmm5 xmm2 s
  let s := movdqu_xx xmm2 xmm1 s
  let s := pand xmm4 xmm1 s
  let s := subsd xmm7 xmm5 s
  let s := addsd xmm0 xmm3 s
  let s := subsd xmm1 xmm4 s
  let s := mulsd xmm4 xmm5 s
  let s := addsd xmm0 xmm7 s
  let s := mulsd xmm2 xmm0 s
  let s := movdqu_xx xmm7 xmm6 s
  let s := mulsd xmm1 xmm5 s
  let s := addsd xmm6 xmm4 s
  let s := movdl_rx eax xmm6 s
  let s := subsd xmm6 xmm7 s
  let s := lea tmp4 Tbl.T_exp s
  let s := addsd xmm2 xmm1 s
  let s := movdqu_xe xmm7 Tbl.e_coeff 0 s
  let s := movdqu_xe xmm3 Tbl.e_coeff 16 s
  let s := subsd xmm4 xmm6 s
  let s := pextrw edx xmm6 3 s
  let s := movl_rr ecx eax s
  let s := andl_ri eax 255 s
  let s := addl_rr eax eax s
  let s := movdqu_xi xmm5 tmp4 eax 8 0 s
  let s := addsd xmm2 xmm4 s
  let s := sarl ecx 8 s
  let s := movl_rr eax ecx s
  let s := sarl ecx 1 s
  let s := subl_rr eax ecx s
  let s := shll_ri ecx 20 s
  let s := xorl_rr ecx tmp1 s
  let s := movdl_xr xmm6 ecx s
  let s := movq_xe xmm1 Tbl.e_coeff 32 s
  let s := andl_ri edx 32767 s
  let s := cmpl_ri edx 16529 s
  if cc_above s then L_2TAG_PACKET_12_0_2 cpu s else
  let s := pshufd xmm0 xmm2 68 s
  let s := pshufd xmm4 xmm2 68 s
  let s := mulpd xmm0 xmm0 s
  let s := mulpd xmm7 xmm4 s
  let s := pshufd xmm6 xmm6 17 s
  let s := mulsd xmm1 xmm2 s
  let s := mulsd xmm0 xmm0 s
  let s := paddd xmm5 xmm6 s
  let s := addpd xmm3 xmm7 s
  let s := mulsd xmm1 xmm5 s
  let s := pshufd xmm6 xmm5 238 s
  let s := mulpd xmm0 xmm3 s
  let s := addsd xmm1 xmm6 s
  let s := pshufd xmm3 xmm0 238 s
  let s := mulsd xmm0 xmm5 s
  let s := mulsd xmm3 xmm5 s
  let s := shll_ri eax 4 s
  let s := xorpd xmm4 xmm4 s
  let s := addl_ri eax 16368 s
  let s := pinsrw xmm4 eax 3 s
  let s := addsd xmm0 xmm1 s
  let s := addsd xmm0 xmm3 s
  let s := movdqu_xx xmm1 xmm0 s
  let s := addsd xmm0 xmm5 s
  let s := mulsd xmm0 xmm4 s
  let s := pextrw eax xmm0 3 s
  let s := andl_ri eax 32752 s
  if cc_equal s then L_2TAG_PACKET_13_0_2 cpu s else
  let s := cmpl_ri eax 32752 s
  if cc_equal s then L_2TAG_PACKET_14_0_2 cpu s else
  B1_5 cpu s

/-- Code following `bind(L_2TAG_PACKET_4_0_2)` (source line 2134). -/
def L_2TAG_PACKET_4_0_2 (cpu : Cpu) (s : Machine) : Machine :=
  let s := bind Label.L_2TAG_PACKET_4_0_2 s
  let s := mulsd xmm3 xmm0 s
  let s := movdqu_xe xmm1 Tbl.coeff_pow 0 s
  let s := lea tmp4 Tbl.L_tbl_pow s
  let s := subsd xmm5 xmm2 s
  let s := movdqu_xe xmm4 Tbl.coeff_pow 16 s
  let s := movl_rr ecx eax s
  let s := sarl eax 31 s
  let s := addl_rr ecx eax s
  let s := xorl_rr eax ecx s
  let s := addl_ri eax 1 s
  let s := bsrl eax eax s
  let s := unpcklpd xmm5 xmm3 s
  let s := movdqu_xe xmm6 Tbl.coeff_pow 32 s
  let s := addsd xmm3 xmm5 s
  let s := andl_ri edx 16760832 s
  let s := shrl edx 10 s
  let s := addpd_xi xmm5 tmp4 edx 1 (2 ^ 64 - 3648) s
  let s := movdqu_xe xmm0 Tbl.coeff_pow 48 s
  let s := pshufd xmm2 xmm3 68 s
  let s := mulsd xmm3 xmm3 s
  let s := mulpd xmm1 xmm2 s
  let s := mulpd xmm4 xmm2 s
  let s := addsd xmm5 xmm7 s
  let s := mulsd xmm2 xmm3 s
  let s := addpd xmm6 xmm1 s
  let s := mulsd xmm3 xmm3 s
  let s := addpd xmm0 xmm4 s
  let s := movq_xm xmm1 16 s
  let s := movw_rm ecx 22 s
  let s := pshufd xmm7 xmm5 238 s
  let s := movq_xe xmm4 Tbl.HIGHMASK_Y 0 s
  let s := mulpd xmm6 xmm2 s
  let s := pshufd xmm3 xmm3 68 s
  let s := mulpd xmm0 xmm2 s
  let s := shll_ri eax 4 s
  let s := subl_ri eax 15872 s
  let s := andl_ri ecx 32752 s
  let s := addl_rr eax ecx s
  let s := mulpd xmm3 xmm6 s
  let s := cmpl_ri eax 624 s
  if cc_aboveEqual s then L_2TAG_PACKET_5_0_2 cpu s else
  let s := xorpd xmm6 xmm6 s
  let s := movl_ri edx 17080 s
  let s := pinsrw xmm6 edx 3 s
  let s := movdqu_xx xmm2 xmm1 s
  let s := pand xmm4 xmm1 s
  let s := subsd xmm1 xmm4 s
  let s := mulsd xmm4 xmm5 s
  let s := addsd xmm0 xmm7 s
  let s := mulsd xmm1 xmm5 s
  let s := movdqu_xx xmm7 xmm6 s
  let s := addsd xmm6 xmm4 s
  let s := lea tmp4 Tbl.T_exp s
  let s := addpd xmm3 xmm0 s
  let s := movdl_rx edx xmm6 s
  let s := subsd xmm6 xmm7 s
  let s := pshufd xmm0 xmm3 238 s
  let s := subsd xmm4 xmm6 s
  let s := addsd xmm0 xmm3 s
  let s := movl_rr ecx edx s
  let s := andl_ri edx 255 s
  let s := addl_rr edx edx s
  let s := movdqu_xi xmm5 tmp4 edx 8 0 s
  let s := addsd xmm4 xmm1 s
  let s := mulsd xmm2 xmm0 s
  let s := movdqu_xe xmm7 Tbl.e_coeff 0 s
  let s := movdqu_xe xmm3 Tbl.e_coeff 16 s
  let s := shll_ri ecx 12 s
  let s := xorl_rr ecx tmp1 s
  let s := andl_ri ecx 0xFFF00000 /- -1048576 -/ s
  let s := movdq_xr xmm6 ecx s
  let s := addsd xmm2 xmm4 s
  let s := mov64 tmp2 0x3fe62e42fefa39ef s
  let s := movdq_xr xmm1 tmp2 s
  let s := pshufd xmm0 xmm2 68 s
  let s := pshufd xmm4 xmm2 68 s
  let s := mulsd xmm1 xmm2 s
  let s := pshufd xmm6 xmm6 17 s
  let s := mulpd xmm0 xmm0 s
  let s := mulpd xmm7 xmm4 s
  let s := paddd xmm5 xmm6 s
  let s := mulsd xmm1 xmm5 s
  let s := pshufd xmm6 xmm5 238 s
  let s := mulsd xmm0 xmm0 s
  let s := addpd xmm3 xmm7 s
  let s := addsd xmm1 xmm6 s
  let s := mulpd xmm0 xmm3 s
  let s := pshufd xmm3 xmm0 238 s
  let s := mulsd xmm0 xmm5 s
  let s := mulsd xmm3 xmm5 s
  let s := addsd xmm0 xmm1 s
  let s := addsd xmm0 xmm3 s
  let s := addsd xmm0 xmm5 s
  B1_5 cpu s

/-- Code following `bind(L_2TAG_PACKET_8_0_2)` (source line 2239). -/
def L_2TAG_PACKET_8_0_2 (cpu : Cpu) (s : Machine) : Machine :=
  let s := bind Label.L_2TAG_PACKET_8_0_2 s
  let s := movq_xm xmm0 8 s
  let s := movq_xm xmm3 8 s
  let s := movdl_rx edx xmm3 s
  let s := psrlq xmm3 32 s
  let s := movdl_rx ecx xmm3 s
  let s := orl_rr edx ecx s
  let s := cmpl_ri edx 0 s
  if cc_equal s then L_2TAG_PACKET_9_0_2 cpu s else
  let s := xorpd xmm3 xmm3 s
  let s := movl_ri eax 18416 s
  let s := pinsrw xmm3 eax 3 s
  let s := mulsd xmm0 xmm3 s
  let s := xorpd xmm2 xmm2 s
  let s := movl_ri eax 16368 s
  let s := pinsrw xmm2 eax 3 s
  let s := movdqu_xx xmm3 xmm0 s
  let s := pextrw eax xmm0 3 s
  let s := por xmm0 xmm2 s
  let s := movl_ri ecx 18416 s
  let s := psrlq xmm0 27 s
  let s := movq_xe xmm2 Tbl.LOG2_E 0 s
  let s := psrld xmm0 2 s
  let s := rcpps cpu.rcp xmm0 xmm0 s
  let s := psllq xmm3 12 s
  let s := movdqu_xe xmm6 Tbl.HIGHSIGMASK 0 s
  let s := psrlq xmm3 12 s
  let s := mulss xmm0 xmm7 s
  let s := movl_ri edx 0xFFFFFC00 /- -1024 -/ s
  let s := movdl_xr xmm5 edx s
  let s := por xmm3 xmm1 s
  let s := paddd xmm0 xmm4 s
  let s := psllq xmm5 32 s
  let s := movdl_rx edx xmm0 s
  let s := psllq xmm0 29 s
  let s := pand xmm5 xmm3 s
  let s := movl_ri tmp1 0 s
  let s := pand xmm0 xmm6 s
  let s := subsd xmm3 xmm5 s
  let s := andl_ri eax 32752 s
  let s := subl_ri eax 18416 s
  let s := sarl eax 4 s
  let s := cvtsi2sdl xmm7 eax s
  let s := mulpd xmm5 xmm0 s
  L_2TAG_PACKET_4_0_2 cpu s

/-- Code following `bind(L_2TAG_PACKET_51_0_2)` (source line 3077). -/
def L_2TAG_PACKET_51_0_2 (cpu : Cpu) (s : Machine) : Machine :=
  let s := bind Label.L_2TAG_PACKET_51_0_2 s
  let s := pextrw eax xmm1 3 s
  let s := pextrw ecx xmm2 3 s
  let s := xorl_rr eax ecx s
  let s := testl_ri eax 32768 s
  if cc_equal s then L_2TAG_PACKET_47_0_2 cpu s else
  L_2TAG_PACKET_46_0_2 cpu s

/-- Code following `bind(L_2TAG_PACKET_52_0_2)` (source line 3048). -/
def L_2TAG_PACKET_52_0_2 (cpu : Cpu) (s : Machine) : Machine :=
  let s := bind Label.L_2TAG_PACKET_52_0_2 s
  B1_5 cpu s

/-- Code following `bind(L_2TAG_PACKET_3_0_2)` (source line 2126). -/
def L_2TAG_PACKET_3_0_2 (cpu : Cpu) (s : Machine) : Machine :=
  let s := bind Label.L_2TAG_PACKET_3_0_2 s
  let s := subsd xmm3 xmm5 s
  let s := pand xmm0 xmm6 s
  let s := subl_ri eax 1 s
  let s := sarl eax 4 s
  let s := cvtsi2sdl xmm7 eax s
  let s := mulpd xmm5 xmm0 s
  L_2TAG_PACKET_4_0_2 cpu s

/-- Code following `bind(L_2TAG_PACKET_2_0_2)` (source line 2877). -/
def L_2TAG_PACKET_2_0_2 (cpu : Cpu) (s : Machine) : Machine :=
  let s := bind Label.L_2TAG_PACKET_2_0_2 s
  let s := movw_rm ecx 22 s
  let s := movl_ri edx 0x80000000 /- INT_MIN -/ s
  let s := movdl_xr xmm1 edx s
  let s := xorpd xmm7 xmm7 s
  let s := paddd xmm0 xmm4 s
  let s := movdl_rx edx xmm0 s
  let s := psllq xmm0 29 s
  let s := paddq xmm1 xmm3 s
  let s := pand xmm5 xmm1 s
  let s := andl_ri ecx 32752 s
  let s := cmpl_ri ecx 16560 s
  if cc_less s then L_2TAG_PACKET_3_0_2 cpu s else
  let s := pand xmm0 xmm6 s
  let s := subsd xmm3 xmm5 s
  let s := addl_ri eax 16351 s
  let s := shrl eax 4 s
  let s := subl_ri eax 1022 s
  let s := cvtsi2sdl xmm7 eax s
  let s := mulpd xmm5 xmm0 s
  let s := lea tmp4 Tbl.L_tbl_pow s
  let s := movq_xe xmm4 Tbl.coeff_h 0 s
  let s := mulsd xmm3 xmm0 s
  let s := movq_xe xmm6 Tbl.coeff_h 0 s
  let s := subsd xmm5 xmm2 s
  let s := movq_xe xmm1 Tbl.coeff_h 8 s
  let s := pshufd xmm2 xmm3 68 s
  let s := unpcklpd xmm5 xmm3 s
  let s := addsd xmm3 xmm5 s
  let s := movq_xe xmm0 Tbl.coeff_h 8 s
  let s := andl_ri edx 16760832 s
  let s := shrl edx 10 s
  let s := addpd_xi xmm7 tmp4 edx 1 (2 ^ 64 - 3648) s
  let s := mulsd xmm4 xmm5 s
  let s := mulsd xmm0 xmm5 s
  let s := mulsd xmm6 xmm2 s
  let s := mulsd xmm1 xmm2 s
  let s := movdqu_xx xmm2 xmm5 s
  let s := mulsd xmm4 xmm5 s
  let s := addsd xmm5 xmm0 s
  let s := movdqu_xx xmm0 xmm7 s
  let s := addsd xmm2 xmm3 s
  let s := addsd xmm7 xmm5 s
  let s := mulsd xmm6 xmm2 s
  let s := subsd xmm0 xmm7 s
  let s := movdqu_xx xmm2 xmm7 s
  let s := addsd xmm7 xmm4 s
  let s := addsd xmm0 xmm5 s
  let s := subsd xmm2 xmm7 s
  let s := addsd xmm4 xmm2 s
  let s := pshufd xmm2 xmm5 238 s
  let s := movdqu_xx xmm5 xmm7 s
  let s := addsd xmm7 xmm2 s
  let s := addsd xmm4 xmm0 s
  let s := movdqu_xe xmm0 Tbl.coeff_pow 0 s
  let s := subsd xmm5 xmm7 s
  let s := addsd xmm6 xmm4 s
  let s := movdqu_xx xmm4 xmm7 s
  let s := addsd xmm5 xmm2 s
  let s := addsd xmm7 xmm1 s
  let s := movdqu_xe xmm2 Tbl.coeff_pow 64 s
  let s := subsd xmm4 xmm7 s
  let s := addsd xmm6 xmm5 s
  let s := addsd xmm4 xmm1 s
  let s := pshufd xmm5 xmm7 238 s
  let s := movapd xmm1 xmm7 s
  let s := addsd xmm7 xmm5 s
  let s := subsd xmm1 xmm7 s
  let s := addsd xmm1 xmm5 s
  let s := movdqu_xe xmm5 Tbl.coeff_pow 80 s
  let s := pshufd xmm3 xmm3 68 s
  let s := addsd xmm6 xmm4 s
  let s := addsd xmm6 xmm1 s
  let s := movdqu_xe xmm1 Tbl.coeff_pow 32 s
  let s := mulpd xmm0 xmm3 s
  let s := mulpd xmm2 xmm3 s
  let s := pshufd xmm4 xmm3 68 s
  let s := mulpd xmm3 xmm3 s
  let s := addpd xmm0 xmm1 s
  let s := addpd xmm5 xmm2 s
  let s := mulsd xmm4 xmm3 s
  let s := movq_xe xmm2 Tbl.HIGHMASK_LOG_X 0 s
  let s := mulpd xmm3 xmm3 s
  let s := movq_xm xmm1 16 s
  let s := movw_rm ecx 22 s
  let s := mulpd xmm0 xmm4 s
  let s := pextrw eax xmm7 3 s
  let s := mulpd xmm5 xmm4 s
  let s := mulpd xmm0 xmm3 s
  let s := movq_xe xmm4 Tbl.HIGHMASK_Y 8 s
  let s := pand xmm2 xmm7 s
  let s := addsd xmm5 xmm6 s
  let s := subsd xmm7 xmm2 s
  let s := addpd xmm5 xmm0 s
  let s := andl_ri eax 32752 s
  let s := subl_ri eax 16368 s
  let s := andl_ri ecx 32752 s
  let s := cmpl_ri ecx 32752 s
  if cc_equal s then L_2TAG_PACKET_45_0_2 cpu s else
  let s := addl_rr ecx eax s
  let s := cmpl_ri ecx 16576 s
  if cc_aboveEqual s then L_2TAG_PACKET_51_0_2 cpu s else
  let s := pshufd xmm0 xmm5 238 s
  let s := pand xmm4 xmm1 s
  let s := movdqu_xx xmm3 xmm1 s
  let s := addsd xmm5 xmm0 s
  let s := subsd xmm1 xmm4 s
  let s := xorpd xmm6 xmm6 s
  let s := movl_ri edx 17080 s
  let s := pinsrw xmm6 edx 3 s
  let s := addsd xmm7 xmm5 s
  let s := mulsd xmm4 xmm2 s
  let s := mulsd xmm1 xmm2 s
  let s := movdqu_xx xmm5 xmm6 s
  let s := mulsd xmm3 xmm7 s
  let s := addsd xmm6 xmm4 s
  let s := addsd xmm1 xmm3 s
  let s := movdqu_xe xmm7 Tbl.e_coeff 0 s
  let s := movdl_rx edx xmm6 s
  let s := subsd xmm6 xmm5 s
  let s := lea tmp4 Tbl.T_exp s
  let s := movdqu_xe xmm3 Tbl.e_coeff 16 s
  let s := movq_xe xmm2 Tbl.e_coeff 32 s
  let s := subsd xmm4 xmm6 s
  let s := movl_rr ecx edx s
  let s := andl_ri edx 255 s
  let s := addl_rr edx edx s
  let s := movdqu_xi xmm5 tmp4 edx 8 0 s
  let s := addsd xmm4 xmm1 s
  let s := pextrw edx xmm6 3 s
  let s := shrl ecx 8 s
  let s := movl_rr eax ecx s
  let s := shrl ecx 1 s
  let s := subl_rr eax ecx s
  let s := shll_ri ecx 20 s
  let s := movdl_xr xmm6 ecx s
  let s := pshufd xmm0 xmm4 68 s
  let s := pshufd xmm1 xmm4 68 s
  let s := mulpd xmm0 xmm0 s
  let s := mulpd xmm7 xmm1 s
  let s := pshufd xmm6 xmm6 17 s
  let s := mulsd xmm2 xmm4 s
  let s := andl_ri edx 32767 s
  let s := cmpl_ri edx 16529 s
  if cc_above s then L_2TAG_PACKET_12_0_2 cpu s else
  let s := mulsd xmm0 xmm0 s
  let s := paddd xmm5 xmm6 s
  let s := addpd xmm3 xmm7 s
  let s := mulsd xmm2 xmm5 s
  let s := pshufd xmm6 xmm5 238 s
  let s := mulpd xmm0 xmm3 s
  let s := addsd xmm2 xmm6 s
  let s := pshufd xmm3 xmm0 238 s
  let s := addl_ri eax 1023 s
  let s := shll_ri eax 20 s
  let s := orl_rr eax tmp1 s
  let s := movdl_xr xmm4 eax s
  let s := mulsd xmm0 xmm5 s
  let s := mulsd xmm3 xmm5 s
  let s := addsd xmm0 xmm2 s
  let s := psllq xmm4 32 s
  let s := addsd xmm0 xmm3 s
  let s := movdqu_xx xmm1 xmm0 s
  let s := addsd xmm0 xmm5 s
  let s := mulsd xmm0 xmm4 s
  let s := pextrw eax xmm0 3 s
  let s := andl_ri eax 32752 s
  if cc_equal s then L_2TAG_PACKET_13_0_2 cpu s else
  let s := cmpl_ri eax 32752 s
  if cc_equal s then L_2TAG_PACKET_14_0_2 cpu s else
  L_2TAG_PACKET_52_0_2 cpu s

/-- Code following `bind(L_2TAG_PACKET_1_0_2)` (source line 2110). -/
def L_2TAG_PACKET_1_0_2 (cpu : Cpu) (s : Machine) : Machine :=
  let s := bind Label.L_2TAG_PACKET_1_0_2 s
  let s := mulss xmm0 xmm7 s
  let s := movl_ri edx 0xFFFFFFFF /- -1 -/ s
  let s := subl_ri ecx 4 s
  let s := shll_cl edx s
  let s := shlq edx 32 s
  let s := movdq_xr xmm5 edx s
  let s := por xmm3 xmm1 s
  let s := subl_ri eax 16351 s
  let s := cmpl_ri eax 1 s
  if cc_belowEqual s then L_2TAG_PACKET_2_0_2 cpu s else
  let s := paddd xmm0 xmm4 s
  let s := pand xmm5 xmm3 s
  let s := movdl_rx edx xmm0 s
  let s := psllq xmm0 29 s
  L_2TAG_PACKET_3_0_2 cpu s

/-- Code following `bind(L_2TAG_PACKET_35_0_2)` (source line 2667). -/
def L_2TAG_PACKET_35_0_2 (cpu : Cpu) (s : Machine) : Machine :=
  let s := bind Label.L_2TAG_PACKET_35_0_2 s
  let s := xorpd xmm1 xmm1 s
  let s := movl_ri edx 30704 s
  let s := pinsrw xmm1 edx 3 s
  let s := movq_xe xmm2 Tbl.LOG2_E 0 s
  let s := movq_xm xmm4 8 s
  let s := pextrw eax xmm4 3 s
  let s := movl_ri edx 8192 s
  let s := movdl_xr xmm4 edx s
  let s := andl_ri eax 32767 s
  let s := subl_ri eax 16 s
  if cc_less s then L_2TAG_PACKET_8_0_2 cpu s else
  let s := movl_rr edx eax s
  let s := andl_ri edx 32752 s
  let s := subl_ri edx 16368 s
  let s := movl_rr ecx edx s
  let s := sarl edx 31 s
  let s := addl_rr ecx edx s
  let s := xorl_rr ecx edx s
  let s := addl_ri ecx 16 s
  let s := bsrl ecx ecx s
  let s := movl_ri tmp1 0 s
  L_2TAG_PACKET_1_0_2 cpu s

/-- Code following `bind(L_2TAG_PACKET_34_0_2)` (source line 2658). -/
def L_2TAG_PACKET_34_0_2 (cpu : Cpu) (s : Machine) : Machine :=
  let s := bind Label.L_2TAG_PACKET_34_0_2 s
  let s := xorpd xmm1 xmm1 s
  let s := movl_ri eax 32752 s
  let s := pinsrw xmm1 eax 3 s
  let s := xorpd xmm0 xmm0 s
  let s := mulsd xmm0 xmm1 s
  let s := movl_mi 0 28 s
  L_2TAG_PACKET_17_0_2 cpu s

/-- Code following `bind(L_2TAG_PACKET_10_0_2)` (source line 2285). -/
def L_2TAG_PACKET_10_0_2 (cpu : Cpu) (s : Machine) : Machine :=
  let s := bind Label.L_2TAG_PACKET_10_0_2 s
  let s := movq_xm xmm0 8 s
  let s := movq_xm xmm3 8 s
  let s := movdl_rx edx xmm3 s
  let s := psrlq xmm3 32 s
  let s := movdl_rx ecx xmm3 s
  let s := orl_rr edx ecx s
  let s := cmpl_ri edx 0 s
  if cc_equal s then L_2TAG_PACKET_9_0_2 cpu s else
  let s := xorpd xmm3 xmm3 s
  let s := movl_ri eax 18416 s
  let s := pinsrw xmm3 eax 3 s
  let s := mulsd xmm0 xmm3 s
  let s := xorpd xmm2 xmm2 s
  let s := movl_ri eax 16368 s
  let s := pinsrw xmm2 eax 3 s
  let s := movdqu_xx xmm3 xmm0 s
  let s := pextrw eax xmm0 3 s
  let s := por xmm0 xmm2 s
  let s := movl_ri ecx 18416 s
  let s := psrlq xmm0 27 s
  let s := movq_xe xmm2 Tbl.LOG2_E 0 s
  let s := psrld xmm0 2 s
  let s := rcpps cpu.rcp xmm0 xmm0 s
  let s := psllq xmm3 12 s
  let s := movdqu_xe xmm6 Tbl.HIGHSIGMASK 0 s
  let s := psrlq xmm3 12 s
  let s := mulss xmm0 xmm7 s
  let s := movl_ri edx 0xFFFFFC00 /- -1024 -/ s
  let s := movdl_xr xmm5 edx s
  let s := por xmm3 xmm1 s
  let s := paddd xmm0 xmm4 s
  let s := psllq xmm5 32 s
  let s := movdl_rx edx xmm0 s
  let s := psllq xmm0 29 s
  let s := pand xmm5 xmm3 s
  let s := movl_ri tmp1 0x80000000 /- INT_MIN -/ s
  let s := pand xmm0 xmm6 s
  let s := subsd xmm3 xmm5 s
  let s := andl_ri eax 32752 s
  let s := subl_ri eax 18416 s
  let s := sarl eax 4 s
  let s := cvtsi2sdl xmm7 eax s
  let s := mulpd xmm5 xmm0 s
  L_2TAG_PACKET_4_0_2 cpu s

/-- Code following `bind(L_2TAG_PACKET_36_0_2)` (source line 2634). -/
def L_2TAG_PACKET_36_0_2 (cpu : Cpu) (s : Machine) : Machine :=
  let s := bind Label.L_2TAG_PACKET_36_0_2 s
  let s := xorpd xmm1 xmm1 s
  let s := movl_ri edx 30704 s
  let s := pinsrw xmm1 edx 3 s
  let s := movq_xe xmm2 Tbl.LOG2_E 0 s
  let s := movq_xm xmm4 8 s
  let s := pextrw eax xmm4 3 s
  let s := movl_ri edx 8192 s
  let s := movdl_xr xmm4 edx s
  let s := andl_ri eax 32767 s
  let s := subl_ri eax 16 s
  if cc_less s then L_2TAG_PACKET_10_0_2 cpu s else
  let s := movl_rr edx eax s
  let s := andl_ri edx 32752 s
  let s := subl_ri edx 16368 s
  let s := movl_rr ecx edx s
  let s := sarl edx 31 s
  let s := addl_rr ecx edx s
  let s := xorl_rr ecx edx s
  let s := addl_ri ecx 16 s
  let s := bsrl ecx ecx s
  let s := movl_ri tmp1 0x80000000 /- INT_MIN -/ s
  L_2TAG_PACKET_1_0_2 cpu s

/-- Code following `bind(L_2TAG_PACKET_33_0_2)` (source line 2590). -/
def L_2TAG_PACKET_33_0_2 (cpu : Cpu) (s : Machine) : Machine :=
  let s := bind Label.L_2TAG_PACKET_33_0_2 s
  let s := testl_ri eax 1 s
  if cc_equal s then L_2TAG_PACKET_35_0_2 cpu s else
  L_2TAG_PACKET_36_0_2 cpu s

/-- Code following `bind(L_2TAG_PACKET_32_0_2)` (source line 2580). -/
def L_2TAG_PACKET_32_0_2 (cpu : Cpu) (s : Machine) : Machine :=
  let s := bind Label.L_2TAG_PACKET_32_0_2 s
  let s := movdl_rx eax xmm1 s
  let s := cmpl_ri edx 17184 s
  if cc_above s then L_2TAG_PACKET_33_0_2 cpu s else
  let s := testl_ri eax 1 s
  if cc_notEqual s then L_2TAG_PACKET_34_0_2 cpu s else
  let s := testl_ri eax 2 s
  if cc_equal s then L_2TAG_PACKET_35_0_2 cpu s else
  L_2TAG_PACKET_36_0_2 cpu s

/-- Code following `bind(L_2TAG_PACKET_31_0_2)` (source line 2575). -/
def L_2TAG_PACKET_31_0_2 (cpu : Cpu) (s : Machine) : Machine :=
  let s := bind Label.L_2TAG_PACKET_31_0_2 s
  let s := movl_ri ecx 32752 s
  let s := pinsrw xmm0 ecx 3 s
  B1_5 cpu s

/-- Code following `bind(L_2TAG_PACKET_30_0_2)` (source line 2564). -/
def L_2TAG_PACKET_30_0_2 (cpu : Cpu) (s : Machine) : Machine :=
  let s := bind Label.L_2TAG_PACKET_30_0_2 s
  let s := movq_xm xmm1 16 s
  let s := andl_ri eax 32752 s
  let s := subl_ri eax 16368 s
  let s := pextrw edx xmm1 3 s
  let s := xorpd xmm0 xmm0 s
  let s := xorl_rr eax edx s
  let s := andl_ri eax 32768 s
  if cc_equal s then L_2TAG_PACKET_31_0_2 cpu s else
  B1_5 cpu s

/-- Code following `bind(L_2TAG_PACKET_29_0_2)` (source line 2549). -/
def L_2TAG_PACKET_29_0_2 (cpu : Cpu) (s : Machine) : Machine :=
  let s := bind Label.L_2TAG_PACKET_29_0_2 s
  let s := movq_xm xmm0 8 s
  let s := pextrw eax xmm0 3 s
  let s := cmpl_ri eax 49136 s
  if cc_notEqual s then L_2TAG_PACKET_30_0_2 cpu s else
  let s := movdl_rx ecx xmm0 s
  let s := psrlq xmm0 20 s
  let s := movdl_rx edx xmm0 s
  let s := orl_rr ecx edx s
  if cc_notEqual s then L_2TAG_PACKET_30_0_2 cpu s else
  let s := xorpd xmm0 xmm0 s
  let s := movl_ri eax 32760 s
  let s := pinsrw xmm0 eax 3 s
  B1_5 cpu s

/-- Code following `bind(L_2TAG_PACKET_28_0_2)` (source line 2539). -/
def L_2TAG_PACKET_28_0_2 (cpu : Cpu) (s : Machine) : Machine :=
  let s := bind Label.L_2TAG_PACKET_28_0_2 s
  let s := movdl_rx eax xmm1 s
  let s := psrlq xmm1 20 s
  let s := movdl_rx edx xmm1 s
  let s := orl_rr eax edx s
  if cc_equal s then L_2TAG_PACKET_29_0_2 cpu s else
  let s := movq_xm xmm0 16 s
  let s := addsd xmm0 xmm0 s
  B1_5 cpu s

/-- Code following `bind(L_2TAG_PACKET_7_0_2)` (source line 2595). -/
def L_2TAG_PACKET_7_0_2 (cpu : Cpu) (s : Machine) : Machine :=
  let s := bind Label.L_2TAG_PACKET_7_0_2 s
  let s := movq_xm xmm2 8 s
  let s := movdl_rx eax xmm2 s
  let s := psrlq xmm2 31 s
  let s := movdl_rx ecx xmm2 s
  let s := orl_rr eax ecx s
  if cc_equal s then L_2TAG_PACKET_9_0_2 cpu s else
  let s := movq_xm xmm1 16 s
  let s := pextrw edx xmm1 3 s
  let s := movdl_rx eax xmm1 s
  let s := movdqu_xx xmm2 xmm1 s
  let s := psrlq xmm2 32 s
  let s := movdl_rx ecx xmm2 s
  let s := addl_rr ecx ecx s
  let s := orl_rr ecx eax s
  if cc_equal s then L_2TAG_PACKET_37_0_2 cpu s else
  let s := andl_ri edx 32752 s
  let s := cmpl_ri edx 32752 s
  if cc_equal s then L_2TAG_PACKET_28_0_2 cpu s else
  let s := cmpl_ri edx 17200 s
  if cc_above s then L_2TAG_PACKET_35_0_2 cpu s else
  let s := cmpl_ri edx 17184 s
  if cc_aboveEqual s then L_2TAG_PACKET_32_0_2 cpu s else
  let s := cmpl_ri edx 16368 s
  if cc_below s then L_2TAG_PACKET_34_0_2 cpu s else
  let s := movl_ri eax 17208 s
  let s := xorpd xmm2 xmm2 s
  let s := pinsrw xmm2 eax 3 s
  let s := movdqu_xx xmm4 xmm2 s
  let s := addsd xmm2 xmm1 s
  let s := subsd xmm4 xmm2 s
  let s := addsd xmm1 xmm4 s
  let s := pextrw eax xmm1 3 s
  let s := andl_ri eax 32767 s
  if cc_notEqual s then L_2TAG_PACKET_34_0_2 cpu s else
  let s := movdl_rx eax xmm2 s
  let s := andl_ri eax 1 s
  if cc_equal s then L_2TAG_PACKET_35_0_2 cpu s else
  L_2TAG_PACKET_36_0_2 cpu s

/-- Code following `bind(L_2TAG_PACKET_19_0_2)` (source line 2691). -/
def L_2TAG_PACKET_19_0_2 (cpu : Cpu) (s : Machine) : Machine :=
  let s := bind Label.L_2TAG_PACKET_19_0_2 s
  let s := xorpd xmm0 xmm0 s
  let s := movl_ri eax 16368 s
  let s := pinsrw xmm0 eax 3 s
  B1_5 cpu s

/-- Code following `bind(L_2TAG_PACKET_24_0_2)` (source line 2522). -/
def L_2TAG_PACKET_24_0_2 (cpu : Cpu) (s : Machine) : Machine :=
  let s := bind Label.L_2TAG_PACKET_24_0_2 s
  let s := movq_xm xmm1 16 s
  let s := pextrw eax xmm1 3 s
  let s := andl_ri eax 32768 s
  if cc_notEqual s then L_2TAG_PACKET_22_0_2 cpu s else
  let s := xorpd xmm0 xmm0 s
  let s := movl_ri eax 32752 s
  let s := pinsrw xmm0 eax 3 s
  B1_5 cpu s

/-- Code following `bind(L_2TAG_PACKET_27_0_2)` (source line 2516). -/
def L_2TAG_PACKET_27_0_2 (cpu : Cpu) (s : Machine) : Machine :=
  let s := bind Label.L_2TAG_PACKET_27_0_2 s
  let s := xorpd xmm0 xmm0 s
  let s := movl_ri eax 32768 s
  let s := pinsrw xmm0 eax 3 s
  B1_5 cpu s

/-- Code following `bind(L_2TAG_PACKET_25_0_2)` (source line 2509). -/
def L_2TAG_PACKET_25_0_2 (cpu : Cpu) (s : Machine) : Machine :=
  let s := bind Label.L_2TAG_PACKET_25_0_2 s
  let s := movq_xm xmm1 16 s
  let s := pextrw eax xmm1 3 s
  let s := andl_ri eax 32768 s
  if cc_notEqual s then L_2TAG_PACKET_27_0_2 cpu s else
  B1_5 cpu s

/-- Code following `bind(L_2TAG_PACKET_26_0_2)` (source line 2532). -/
def L_2TAG_PACKET_26_0_2 (cpu : Cpu) (s : Machine) : Machine :=
  let s := bind Label.L_2TAG_PACKET_26_0_2 s
  let s := movq_xm xmm1 16 s
  let s := movdl_rx eax xmm1 s
  let s := andl_ri eax 1 s
  if cc_equal s then L_2TAG_PACKET_24_0_2 cpu s else
  L_2TAG_PACKET_25_0_2 cpu s

/-- Code following `bind(L_2TAG_PACKET_23_0_2)` (source line 2475). -/
def L_2TAG_PACKET_23_0_2 (cpu : Cpu) (s : Machine) : Machine :=
  let s := bind Label.L_2TAG_PACKET_23_0_2 s
  let s := movq_xm xmm1 16 s
  let s := movdl_rx eax xmm1 s
  let s := testl_ri eax 1 s
  if cc_notEqual s then L_2TAG_PACKET_24_0_2 cpu s else
  let s := testl_ri eax 2 s
  if cc_notEqual s then L_2TAG_PACKET_25_0_2 cpu s else
  L_2TAG_PACKET_24_0_2 cpu s

/-- Code following `bind(L_2TAG_PACKET_21_0_2)` (source line 2484). -/
def L_2TAG_PACKET_21_0_2 (cpu : Cpu) (s : Machine) : Machine :=
  let s := bind Label.L_2TAG_PACKET_21_0_2 s
  let s := shrl ecx 20 s
  let s := andl_ri ecx 2047 s
  let s := cmpl_ri ecx 1075 s
  if cc_above s then L_2TAG_PACKET_24_0_2 cpu s else
  if cc_equal s then L_2TAG_PACKET_26_0_2 cpu s else
  let s := cmpl_ri ecx 1074 s
  if cc_above s then L_2TAG_PACKET_23_0_2 cpu s else
  let s := cmpl_ri ecx 1023 s
  if cc_below s then L_2TAG_PACKET_24_0_2 cpu s else
  let s := movq_xm xmm1 16 s
  let s := movl_ri eax 17208 s
  let s := xorpd xmm3 xmm3 s
  let s := pinsrw xmm3 eax 3 s
  let s := movdqu_xx xmm4 xmm3 s
  let s := addsd xmm3 xmm1 s
  let s := subsd xmm4 xmm3 s
  let s := addsd xmm1 xmm4 s
  let s := pextrw eax xmm1 3 s
  let s := andl_ri eax 32752 s
  if cc_notEqual s then L_2TAG_PACKET_24_0_2 cpu s else
  let s := movdl_rx eax xmm3 s
  let s := andl_ri eax 1 s
  if cc_equal s then L_2TAG_PACKET_24_0_2 cpu s else
  L_2TAG_PACKET_25_0_2 cpu s

/-- Code following `bind(L_2TAG_PACKET_20_0_2)` (source line 2467). -/
def L_2TAG_PACKET_20_0_2 (cpu : Cpu) (s : Machine) : Machine :=
  let s := bind Label.L_2TAG_PACKET_20_0_2 s
  let s := pextrw eax xmm0 3 s
  let s := testl_ri eax 32768 s
  if cc_notEqual s then L_2TAG_PACKET_21_0_2 cpu s else
  let s := testl_ri ecx 0x80000000 /- INT_MIN -/ s
  if cc_notEqual s then L_2TAG_PACKET_22_0_2 cpu s else
  B1_5 cpu s

/-- Code following `bind(L_2TAG_PACKET_15_0_2)` (source line 2448). -/
def L_2TAG_PACKET_15_0_2 (cpu : Cpu) (s : Machine) : Machine :=
  let s := bind Label.L_2TAG_PACKET_15_0_2 s
  let s := movdl_rx eax xmm1 s
  let s := movdqu_xx xmm2 xmm1 s
  let s := psrlq xmm1 32 s
  let s := movdl_rx edx xmm1 s
  let s := movl_rr ecx edx s
  let s := addl_rr edx edx s
  let s := orl_rr eax edx s
  if cc_equal s then L_2TAG_PACKET_19_0_2 cpu s else
  let s := pextrw eax xmm2 3 s
  let s := andl_ri eax 32752 s
  let s := cmpl_ri eax 32752 s
  if cc_notEqual s then L_2TAG_PACKET_20_0_2 cpu s else
  let s := movdl_rx eax xmm2 s
  let s := psrlq xmm2 20 s
  let s := movdl_rx edx xmm2 s
  let s := orl_rr eax edx s
  if cc_notEqual s then L_2TAG_PACKET_18_0_2 cpu s else
  L_2TAG_PACKET_20_0_2 cpu s

/-- Code following `bind(L_2TAG_PACKET_16_0_2)` (source line 2436). -/
def L_2TAG_PACKET_16_0_2 (cpu : Cpu) (s : Machine) : Machine :=
  let s := bind Label.L_2TAG_PACKET_16_0_2 s
  let s := xorpd xmm0 xmm0 s
  let s := movl_ri eax 16368 s
  let s := pinsrw xmm0 eax 3 s
  let s := movl_mi 0 29 s
  L_2TAG_PACKET_17_0_2 cpu s

/-- Code following `bind(L_2TAG_PACKET_6_0_2)` (source line 2417). -/
def L_2TAG_PACKET_6_0_2 (cpu : Cpu) (s : Machine) : Machine :=
  let s := bind Label.L_2TAG_PACKET_6_0_2 s
  let s := movq_xm xmm1 16 s
  let s := movq_xm xmm0 8 s
  let s := movdqu_xx xmm2 xmm0 s
  let s := movdl_rx eax xmm2 s
  let s := psrlq xmm2 20 s
  let s := movdl_rx edx xmm2 s
  let s := orl_rr eax edx s
  if cc_equal s then L_2TAG_PACKET_15_0_2 cpu s else
  let s := movdl_rx eax xmm1 s
  let s := psrlq xmm1 32 s
  let s := movdl_rx edx xmm1 s
  let s := movl_rr ecx edx s
  let s := addl_rr edx edx s
  let s := orl_rr eax edx s
  if cc_equal s then L_2TAG_PACKET_16_0_2 cpu s else
  let s := addsd xmm0 xmm0 s
  B1_5 cpu s

/-- Code following `bind(L_2TAG_PACKET_0_0_2)` (source line 2230). -/
def L_2TAG_PACKET_0_0_2 (cpu : Cpu) (s : Machine) : Machine :=
  let s := bind Label.L_2TAG_PACKET_0_0_2 s
  let s := addl_ri eax 16 s
  let s := movl_ri edx 32752 s
  let s := andl_rr edx eax s
  let s := cmpl_ri edx 32752 s
  if cc_equal s then L_2TAG_PACKET_6_0_2 cpu s else
  let s := testl_ri eax 32768 s
  if cc_notEqual s then L_2TAG_PACKET_7_0_2 cpu s else
  L_2TAG_PACKET_8_0_2 cpu s

/-- Code following `bind(B1_2)` (source line 2075). -/
def B1_2 (cpu : Cpu) (s : Machine) : Machine :=
  let s := bind Label.B1_2 s
  let s := pextrw eax xmm0 3 s
  let s := xorpd xmm2 xmm2 s
  let s := mov64 tmp2 0x3ff0000000000000 s
  let s := movdq_xr xmm2 tmp2 s
  let s := movl_ri tmp1 1069088768 s
  let s := movdq_xr xmm7 tmp1 s
  let s := xorpd xmm1 xmm1 s
  let s := mov64 tmp3 0x77f0000000000000 s
  let s := movdq_xr xmm1 tmp3 s
  let s := movdqu_xx xmm3 xmm0 s
  let s := movl_ri edx 32752 s
  let s := andl_rr edx eax s
  let s := subl_ri edx 16368 s
  let s := movl_rr ecx edx s
  let s := sarl edx 31 s
  let s := addl_rr ecx edx s
  let s := xorl_rr ecx edx s
  let s := por xmm0 xmm2 s
  let s := movdqu_xe xmm6 Tbl.HIGHSIGMASK 0 s
  let s := psrlq xmm0 27 s
  let s := movq_xe xmm2 Tbl.LOG2_E 0 s
  let s := psrld xmm0 2 s
  let s := addl_ri ecx 16 s
  let s := bsrl ecx ecx s
  let s := rcpps cpu.rcp xmm0 xmm0 s
  let s := psllq xmm3 12 s
  let s := movl_ri tmp4 8192 s
  let s := movdq_xr xmm4 tmp4 s
  let s := psrlq xmm3 12 s
  let s := subl_ri eax 16 s
  let s := cmpl_ri eax 32736 s
  if cc_aboveEqual s then L_2TAG_PACKET_0_0_2 cpu s else
  let s := movl_ri tmp1 0 s
  L_2TAG_PACKET_1_0_2 cpu s

/-- Code following `bind(start)` (source line 2070). -/
def start (cpu : Cpu) (s : Machine) : Machine :=
  let s := bind Label.start s
  let s := subq_rsp 40 s
  let s := movsd_mx 8 xmm0 s
  let s := movsd_mx 16 xmm1 s
  B1_2 cpu s

/-- Code emitted before the first label (source line 2037). -/
def entry (cpu : Cpu) (s : Machine) : Machine :=
  let s := bind Label.entry s
  start cpu s

end fast_pow

end MacroAssembler

namespace MacroAssembler

/-- The 64-bit `MacroAssembler::fast_exp` kernel: final machine state. -/
def fast_exp (cpu : Cpu) (s : Machine) : Machine := fast_exp.entry cpu s

/-- The 64-bit `MacroAssembler::fast_log` kernel: final machine state. -/
def fast_log (cpu : Cpu) (s : Machine) : Machine := fast_log.entry cpu s

/-- The 64-bit `MacroAssembler::fast_pow` kernel: final machine state. -/
def fast_pow (cpu : Cpu) (s : Machine) : Machine := fast_pow.entry cpu s

end MacroAssembler

/-- First argument of a kernel: the low quadword of `xmm0` (a binary64 bit pattern). -/
def Machine.arg0 (s : Machine) : Nat := lo64 (s.xr .xmm0)
/-- Second argument of `fast_pow`: the low quadword of `xmm1`. -/
def Machine.arg1 (s : Machine) : Nat := lo64 (s.xr .xmm1)
/-- Result of a kernel: the low quadword of `xmm0`. -/
def Machine.result (s : Machine) : Nat := lo64 (s.xr .xmm0)

/-- A machine state holding the arguments `x` (in `xmm0`) and `y` (in `xmm1`), every other
register, flag and frame slot being zero. -/
def Machine.init (x y : Nat) : Machine :=
  { xmm := fun r => if r = .xmm0 then x else if r = .xmm1 then y else 0,
    gpr := fun _ => 0, cf := false, zf := false, sf := false, ovf := false,
    frame := fun _ => 0, trace := [] }

namespace MacroAssembler
open XReg GReg

namespace fast_exp

/-- State at exit 1 of `B1_5`, from the state at the previous exit (or at entry). -/
def B1_5_1 (cpu : Cpu) (s : Machine) : Machine :=
  let s := bind Label.B1_5 s
  let s := addq_rsp 24 s
  s

/-- State at exit 1 of `L_2TAG_PACKET_11_0_2`, from the state at the previous exit (or at entry). -/
def L_2TAG_PACKET_11_0_2_1 (cpu : Cpu) (s : Machine) : Machine :=
  let s := bind Label.L_2TAG_PACKET_11_0_2 s
  let s := movsd_xm xmm0 8 s
  let s := addsd xmm0 xmm0 s
  s

/-- State at exit 1 of `L_2TAG_PACKET_12_0_2`, from the state at the previous exit (or at entry). -/
def L_2TAG_PACKET_12_0_2_1 (cpu : Cpu) (s : Machine) : Machine :=
  let s := bind Label.L_2TAG_PACKET_12_0_2 s
  let s := movsd_xe xmm0 Tbl.ZERO 0 s
  s

/-- State at exit 1 of `L_2TAG_PACKET_9_0_2`, from the state at the previous exit (or at entry). -/
def L_2TAG_PACKET_9_0_2_1 (cpu : Cpu) (s : Machine) : Machine :=
  let s := bind Label.L_2TAG_PACKET_9_0_2 s
  let s := movl_rm edx 8 s
  let s := cmpl_ri eax 2146435072 s
  s

/-- State at exit 2 of `L_2TAG_PACKET_9_0_2`, from the state at the previous exit (or at entry). -/
def L_2TAG_PACKET_9_0_2_2 (cpu : Cpu) (s : Machine) : Machine :=
  let s := cmpl_ri edx 0 s
  s

/-- State at exit 3 of `L_2TAG_PACKET_9_0_2`, from the state at the previous exit (or at entry). -/
def L_2TAG_PACKET_9_0_2_3 (cpu : Cpu) (s : Machine) : Machine :=
  let s := movl_rm eax 12 s
  let s := cmpl_ri eax 2146435072 s
  s

/-- State at exit 4 of `L_2TAG_PACKET_9_0_2`, from the state at the previous exit (or at entry). -/
def L_2TAG_PACKET_9_0_2_4 (cpu : Cpu) (s : Machine) : Machine :=
  let s := movsd_xe xmm0 Tbl.INF 0 s
  s

/-- State at exit 1 of `B1_3`, from the state at the previous exit (or at entry). -/
def B1_3_1 (cpu : Cpu) (s : Machine) : Machine :=
  let s := bind Label.B1_3 s
  let s := movq_xm xmm0 16 s
  s

/-- State at exit 1 of `L_2TAG_PACKET_6_0_2`, from the state at the previous exit (or at entry). -/
def L_2TAG_PACKET_6_0_2_1 (cpu : Cpu) (s : Machine) : Machine :=
  let s := bind Label.L_2TAG_PACKET_6_0_2 s
  let s := movq_mx 16 xmm0 s
  s

/-- State at exit 1 of `L_2TAG_PACKET_10_0_2`, from the state at the previous exit (or at entry). -/
def L_2TAG_PACKET_10_0_2_1 (cpu : Cpu) (s : Machine) : Machine :=
  let s := bind Label.L_2TAG_PACKET_10_0_2 s
  let s := movsd_xe xmm0 Tbl.XMIN 0 s
  let s := mulsd xmm0 xmm0 s
  let s := movl_mi 0 15 s
  s

/-- State at exit 1 of `L_2TAG_PACKET_7_0_2`, from the state at the previous exit (or at entry). -/
def L_2TAG_PACKET_7_0_2_1 (cpu : Cpu) (s : Machine) : Machine :=
  let s := bind Label.L_2TAG_PACKET_7_0_2 s
  let s := movl_mi 0 14 s
  s

/-- State at exit 1 of `L_2TAG_PACKET_8_0_2`, from the state at the previous exit (or at entry). -/
def L_2TAG_PACKET_8_0_2_1 (cpu : Cpu) (s : Machine) : Machine :=
  let s := bind Label.L_2TAG_PACKET_8_0_2 s
  let s := cmpl_ri eax 2146435072 s
  s

/-- State at exit 2 of `L_2TAG_PACKET_8_0_2`, from the state at the previous exit (or at entry). -/
def L_2TAG_PACKET_8_0_2_2 (cpu : Cpu) (s : Machine) : Machine :=
  let s := movl_rm eax 12 s
  let s := cmpl_ri eax 0x80000000 /- INT_MIN -/ s
  s

/-- State at exit 3 of `L_2TAG_PACKET_8_0_2`, from the state at the previous exit (or at entry). -/
def L_2TAG_PACKET_8_0_2_3 (cpu : Cpu) (s : Machine) : Machine :=
  let s := movsd_xe xmm0 Tbl.XMAX 0 s
  let s := mulsd xmm0 xmm0 s
  s

/-- State at exit 1 of `L_2TAG_PACKET_0_0_2`, from the state at the previous exit (or at entry). -/
def L_2TAG_PACKET_0_0_2_1 (cpu : Cpu) (s : Machine) : Machine :=
  let s := bind Label.L_2TAG_PACKET_0_0_2 s
  let s := movl_rm eax 12 s
  let s := andl_ri eax 2147483647 s
  let s := cmpl_ri eax 1083179008 s
  s

/-- State at exit 2 of `L_2TAG_PACKET_0_0_2`, from the state at the previous exit (or at entry). -/
def L_2TAG_PACKET_0_0_2_2 (cpu : Cpu) (s : Machine) : Machine :=
  let s := movsd_mx 8 xmm0 s
  let s := addsd_xe xmm0 Tbl.ONE_val 0 s
  s

/-- State at exit 1 of `L_2TAG_PACKET_2_0_2`, from the state at the previous exit (or at entry). -/
def L_2TAG_PACKET_2_0_2_1 (cpu : Cpu) (s : Machine) : Machine :=
  let s := bind Label.L_2TAG_PACKET_2_0_2 s
  let s := paddd xmm3 xmm6 s
  let s := addpd xmm0 xmm2 s
  let s := mulsd xmm0 xmm3 s
  let s := movl_mi 0 15 s
  s

/-- State at exit 1 of `L_2TAG_PACKET_3_0_2`, from the state at the previous exit (or at entry). -/
def L_2TAG_PACKET_3_0_2_1 (cpu : Cpu) (s : Machine) : Machine :=
  let s := bind Label.L_2TAG_PACKET_3_0_2 s
  let s := addsd xmm0 xmm4 s
  let s := mulsd xmm0 xmm3 s
  let s := pextrw ecx xmm0 3 s
  let s := andl_ri ecx 32752 s
  let s := cmpl_ri ecx 32752 s
  s

/-- State at exit 2 of `L_2TAG_PACKET_3_0_2`, from the state at the previous exit (or at entry). -/
def L_2TAG_PACKET_3_0_2_2 (cpu : Cpu) (s : Machine) : Machine :=
  s

/-- State at exit 1 of `L_2TAG_PACKET_4_0_2`, from the state at the previous exit (or at entry). -/
def L_2TAG_PACKET_4_0_2_1 (cpu : Cpu) (s : Machine) : Machine :=
  let s := bind Label.L_2TAG_PACKET_4_0_2 s
  let s := addsd xmm0 xmm4 s
  let s := mulsd xmm0 xmm3 s
  s

/-- State at exit 1 of `L_2TAG_PACKET_5_0_2`, from the state at the previous exit (or at entry). -/
def L_2TAG_PACKET_5_0_2_1 (cpu : Cpu) (s : Machine) : Machine :=
  let s := bind Label.L_2TAG_PACKET_5_0_2 s
  let s := mulsd xmm6 xmm3 s
  let s := mulsd xmm4 xmm3 s
  let s := movdqu_xx xmm0 xmm6 s
  let s := pxor xmm6 xmm4 s
  let s := psrad xmm6 31 s
  let s := pshufd xmm6 xmm6 85 s
  let s := psllq xmm0 1 s
  let s := psrlq xmm0 1 s
  let s := pxor xmm0 xmm6 s
  let s := psrlq xmm6 63 s
  let s := paddq xmm0 xmm6 s
  let s := paddq xmm0 xmm4 s
  let s := movl_mi 0 15 s
  s

/-- State at exit 1 of `L_2TAG_PACKET_1_0_2`, from the state at the previous exit (or at entry). -/
def L_2TAG_PACKET_1_0_2_1 (cpu : Cpu) (s : Machine) : Machine :=
  let s := bind Label.L_2TAG_PACKET_1_0_2 s
  let s := xorpd xmm3 xmm3 s
  let s := movdqu_xe xmm4 Tbl.ALLONES 0 s
  let s := movl_ri edx 0xFFFFFC02 /- -1022 -/ s
  let s := subl_rr edx eax s
  let s := movdl_xr xmm5 edx s
  let s := psllq_xx xmm4 xmm5 s
  let s := movl_rr ecx eax s
  let s := sarl eax 1 s
  let s := pinsrw xmm3 eax 3 s
  let s := movdqu_xe xmm6 Tbl.ebias 0 s
  let s := psllq xmm3 4 s
  let s := psubd xmm2 xmm3 s
  let s := mulsd xmm0 xmm2 s
  let s := cmpl_ri edx 52 s
  s

/-- State at exit 2 of `L_2TAG_PACKET_1_0_2`, from the state at the previous exit (or at entry). -/
def L_2TAG_PACKET_1_0_2_2 (cpu : Cpu) (s : Machine) : Machine :=
  let s := pand xmm4 xmm2 s
  let s := paddd xmm3 xmm6 s
  let s := subsd xmm2 xmm4 s
  let s := addsd xmm0 xmm2 s
  let s := cmpl_ri ecx 1023 s
  s

/-- State at exit 3 of `L_2TAG_PACKET_1_0_2`, from the state at the previous exit (or at entry). -/
def L_2TAG_PACKET_1_0_2_3 (cpu : Cpu) (s : Machine) : Machine :=
  let s := pextrw ecx xmm0 3 s
  let s := andl_ri ecx 32768 s
  let s := orl_rr edx ecx s
  let s := cmpl_ri edx 0 s
  s

/-- State at exit 4 of `L_2TAG_PACKET_1_0_2`, from the state at the previous exit (or at entry). -/
def L_2TAG_PACKET_1_0_2_4 (cpu : Cpu) (s : Machine) : Machine :=
  let s := movapd xmm6 xmm0 s
  let s := addsd xmm0 xmm4 s
  let s := mulsd xmm0 xmm3 s
  let s := pextrw ecx xmm0 3 s
  let s := andl_ri ecx 32752 s
  let s := cmpl_ri ecx 0 s
  s

/-- State at exit 5 of `L_2TAG_PACKET_1_0_2`, from the state at the previous exit (or at entry). -/
def L_2TAG_PACKET_1_0_2_5 (cpu : Cpu) (s : Machine) : Machine :=
  s

/-- State at exit 1 of `start`, from the state at the previous exit (or at entry). -/
def start_1 (cpu : Cpu) (s : Machine) : Machine :=
  let s := bind Label.start s
  let s := subq_rsp 24 s
  let s := movsd_mx 8 xmm0 s
  let s := unpcklpd xmm0 xmm0 s
  let s := movdqu_xe xmm1 Tbl.cv 0 s
  let s := movdqu_xe xmm6 Tbl.shifter 0 s
  let s := movdqu_xe xmm2 Tbl.cv 16 s
  let s := movdqu_xe xmm3 Tbl.cv 32 s
  let s := pextrw eax xmm0 3 s
  let s := andl_ri eax 32767 s
  let s := movl_ri edx 16527 s
  let s := subl_rr edx eax s
  let s := subl_ri eax 15504 s
  let s := orl_rr edx eax s
  let s := cmpl_ri edx 0x80000000 /- INT_MIN -/ s
  s

/-- State at exit 2 of `start`, from the state at the previous exit (or at entry). -/
def start_2 (cpu : Cpu) (s : Machine) : Machine :=
  let s := mulpd xmm1 xmm0 s
  let s := addpd xmm1 xmm6 s
  let s := movapd xmm7 xmm1 s
  let s := subpd xmm1 xmm6 s
  let s := mulpd xmm2 xmm1 s
  let s := movdqu_xe xmm4 Tbl.cv 64 s
  let s := mulpd xmm3 xmm1 s
  let s := movdqu_xe xmm5 Tbl.cv 80 s
  let s := subpd xmm0 xmm2 s
  let s := movdl_rx eax xmm7 s
  let s := movl_rr ecx eax s
  let s := andl_ri ecx 63 s
  let s := shll_ri ecx 4 s
  let s := sarl eax 6 s
  let s := movl_rr edx eax s
  let s := movdqu_xe xmm6 Tbl.mmask 0 s
  let s := pand xmm7 xmm6 s
  let s := movdqu_xe xmm6 Tbl.bias 0 s
  let s := paddq xmm7 xmm6 s
  let s := psllq xmm7 46 s
  let s := subpd xmm0 xmm3 s
  let s := lea tmp4 Tbl.Tbl_addr s
  let s := movdqu_xi xmm2 ecx tmp4 1 0 s
  let s := mulpd xmm4 xmm0 s
  let s := movapd xmm6 xmm0 s
  let s := movapd xmm1 xmm0 s
  let s := mulpd xmm6 xmm6 s
  let s := mulpd xmm0 xmm6 s
  let s := addpd xmm5 xmm4 s
  let s := mulsd xmm0 xmm6 s
  let s := mulpd_xe xmm6 Tbl.cv 48 s
  let s := addsd xmm1 xmm2 s
  let s := unpckhpd xmm2 xmm2 s
  let s := mulpd xmm0 xmm5 s
  let s := addsd xmm1 xmm0 s
  let s := por xmm2 xmm7 s
  let s := unpckhpd xmm0 xmm0 s
  let s := addsd xmm0 xmm1 s
  let s := addsd xmm0 xmm6 s
  let s := addl_ri edx 894 s
  let s := cmpl_ri edx 1916 s
  s

/-- State at exit 3 of `start`, from the state at the previous exit (or at entry). -/
def start_3 (cpu : Cpu) (s : Machine) : Machine :=
  let s := mulsd xmm0 xmm2 s
  let s := addsd xmm0 xmm2 s
  s

/-- State at exit 1 of `entry`, from the state at the previous exit (or at entry). -/
def entry_1 (cpu : Cpu) (s : Machine) : Machine :=
  let s := bind Label.entry s
  s

end fast_exp

end MacroAssembler

namespace MacroAssembler
open XReg GReg

namespace fast_log

/-- State at exit 1 of `B1_5`, from the state at the previous exit (or at entry). -/
def B1_5_1 (cpu : Cpu) (s : Machine) : Machine :=
  let s := bind Label.B1_5 s
  let s := addq_rsp 24 s
  s

/-- State at exit 1 of `B1_3`, from the state at the previous exit (or at entry). -/
def B1_3_1 (cpu : Cpu) (s : Machine) : Machine :=
  let s := bind Label.B1_3 s
  let s := movq_xm xmm0 8 s
  s

/-- State at exit 1 of `L_2TAG_PACKET_8_0_2`, from the state at the previous exit (or at entry). -/
def L_2TAG_PACKET_8_0_2_1 (cpu : Cpu) (s : Machine) : Machine :=
  let s := bind Label.L_2TAG_PACKET_8_0_2 s
  let s := movq_mx 8 xmm0 s
  s

/-- State at exit 1 of `L_2TAG_PACKET_7_0_2`, from the state at the previous exit (or at entry). -/
def L_2TAG_PACKET_7_0_2_1 (cpu : Cpu) (s : Machine) : Machine :=
  let s := bind Label.L_2TAG_PACKET_7_0_2 s
  let s := xorpd xmm1 xmm1 s
  let s := xorpd xmm0 xmm0 s
  let s := movl_ri eax 49136 s
  let s := pinsrw xmm0 eax 3 s
  let s := divsd xmm0 xmm1 s
  let s := movl_mi 16 2 s
  s

/-- State at exit 1 of `L_2TAG_PACKET_6_0_2`, from the state at the previous exit (or at entry). -/
def L_2TAG_PACKET_6_0_2_1 (cpu : Cpu) (s : Machine) : Machine :=
  let s := bind Label.L_2TAG_PACKET_6_0_2 s
  let s := xorpd xmm1 xmm1 s
  let s := xorpd xmm0 xmm0 s
  let s := movl_ri eax 32752 s
  let s := pinsrw xmm1 eax 3 s
  let s := mulsd xmm0 xmm1 s
  let s := movl_mi 16 3 s
  s

/-- State at exit 1 of `L_2TAG_PACKET_4_0_2`, from the state at the previous exit (or at entry). -/
def L_2TAG_PACKET_4_0_2_1 (cpu : Cpu) (s : Machine) : Machine :=
  let s := bind Label.L_2TAG_PACKET_4_0_2 s
  let s := addsd xmm0 xmm0 s
  s

/-- State at exit 1 of `L_2TAG_PACKET_5_0_2`, from the state at the previous exit (or at entry). -/
def L_2TAG_PACKET_5_0_2_1 (cpu : Cpu) (s : Machine) : Machine :=
  let s := bind Label.L_2TAG_PACKET_5_0_2 s
  s

/-- State at exit 2 of `L_2TAG_PACKET_5_0_2`, from the state at the previous exit (or at entry). -/
def L_2TAG_PACKET_5_0_2_2 (cpu : Cpu) (s : Machine) : Machine :=
  let s := cmpl_ri edx 0 s
  s

/-- State at exit 3 of `L_2TAG_PACKET_5_0_2`, from the state at the previous exit (or at entry). -/
def L_2TAG_PACKET_5_0_2_3 (cpu : Cpu) (s : Machine) : Machine :=
  s

/-- State at exit 1 of `L_2TAG_PACKET_2_0_2`, from the state at the previous exit (or at entry). -/
def L_2TAG_PACKET_2_0_2_1 (cpu : Cpu) (s : Machine) : Machine :=
  let s := bind Label.L_2TAG_PACKET_2_0_2 s
  let s := movdl_rx edx xmm1 s
  let s := psrlq xmm1 32 s
  let s := movdl_rx ecx xmm1 s
  let s := addl_rr ecx ecx s
  let s := cmpl_ri ecx 0xFFE00000 /- -2097152 -/ s
  s

/-- State at exit 2 of `L_2TAG_PACKET_2_0_2`, from the state at the previous exit (or at entry). -/
def L_2TAG_PACKET_2_0_2_2 (cpu : Cpu) (s : Machine) : Machine :=
  let s := orl_rr edx ecx s
  let s := cmpl_ri edx 0 s
  s

/-- State at exit 3 of `L_2TAG_PACKET_2_0_2`, from the state at the previous exit (or at entry). -/
def L_2TAG_PACKET_2_0_2_3 (cpu : Cpu) (s : Machine) : Machine :=
  s

/-- State at exit 1 of `L_2TAG_PACKET_1_0_2`, from the state at the previous exit (or at entry). -/
def L_2TAG_PACKET_1_0_2_1 (cpu : Cpu) (s : Machine) : Machine :=
  let s := bind Label.L_2TAG_PACKET_1_0_2 s
  let s := paddd xmm0 xmm4 s
  let s := por xmm1 xmm3 s
  let s := movdl_rx edx xmm0 s
  let s := psllq xmm0 29 s
  let s := pand xmm5 xmm1 s
  let s := pand xmm0 xmm6 s
  let s := subsd xmm1 xmm5 s
  let s := mulpd xmm5 xmm0 s
  let s := andl_ri eax 32752 s
  let s := subl_rr eax ecx s
  let s := cvtsi2sdl xmm7 eax s
  let s := mulsd xmm1 xmm0 s
  let s := movq_xe xmm6 Tbl.log2 0 s
  let s := movdqu_xe xmm3 Tbl.coeff 0 s
  let s := subsd xmm5 xmm2 s
  let s := andl_ri edx 16711680 s
  let s := shrl edx 12 s
  let s := movdqu_xi xmm0 tmp2 edx 1 0 s
  let s := movdqu_xe xmm4 Tbl.coeff 16 s
  let s := addsd xmm1 xmm5 s
  let s := movdqu_xe xmm2 Tbl.coeff 32 s
  let s := mulsd xmm6 xmm7 s
  let s := if cpu.supports_sse3 then (movddup xmm5 xmm1 s) else (movlhps xmm5 xmm5 (movdqu_xx xmm5 xmm1 s))
  let s := mulsd_xe xmm7 Tbl.log2 8 s
  let s := mulsd xmm3 xmm1 s
  let s := addsd xmm0 xmm6 s
  let s := mulpd xmm4 xmm5 s
  let s := mulpd xmm5 xmm5 s
  let s := if cpu.supports_sse3 then (movddup xmm6 xmm0 s) else (movlhps xmm6 xmm6 (movdqu_xx xmm6 xmm0 s))
  let s := addsd xmm0 xmm1 s
  let s := addpd xmm4 xmm2 s
  let s := mulpd xmm3 xmm5 s
  let s := subsd xmm6 xmm0 s
  let s := mulsd xmm4 xmm1 s
  let s := pshufd xmm2 xmm0 238 s
  let s := addsd xmm1 xmm6 s
  let s := mulsd xmm5 xmm5 s
  let s := addsd xmm7 xmm2 s
  let s := addpd xmm4 xmm3 s
  let s := addsd xmm1 xmm7 s
  let s := mulpd xmm4 xmm5 s
  let s := addsd xmm1 xmm4 s
  let s := pshufd xmm5 xmm4 238 s
  let s := addsd xmm1 xmm5 s
  let s := addsd xmm0 xmm1 s
  s

/-- State at exit 1 of `L_2TAG_PACKET_3_0_2`, from the state at the previous exit (or at entry). -/
def L_2TAG_PACKET_3_0_2_1 (cpu : Cpu) (s : Machine) : Machine :=
  let s := bind Label.L_2TAG_PACKET_3_0_2 s
  let s := xorpd xmm1 xmm1 s
  let s := addsd xmm1 xmm0 s
  let s := movdl_rx edx xmm1 s
  let s := psrlq xmm1 32 s
  let s := movdl_rx ecx xmm1 s
  let s := orl_rr edx ecx s
  let s := cmpl_ri edx 0 s
  s

/-- State at exit 2 of `L_2TAG_PACKET_3_0_2`, from the state at the previous exit (or at entry). -/
def L_2TAG_PACKET_3_0_2_2 (cpu : Cpu) (s : Machine) : Machine :=
  let s := xorpd xmm1 xmm1 s
  let s := movl_ri eax 18416 s
  let s := pinsrw xmm1 eax 3 s
  let s := mulsd xmm0 xmm1 s
  let s := movdqu_xx xmm1 xmm0 s
  let s := pextrw eax xmm0 3 s
  let s := por xmm0 xmm2 s
  let s := psrlq xmm0 27 s
  let s := movl_ri ecx 18416 s
  let s := psrld xmm0 2 s
  let s := rcpps cpu.rcp xmm0 xmm0 s
  let s := psllq xmm1 12 s
  let s := pshufd xmm6 xmm5 228 s
  let s := psrlq xmm1 12 s
  s

/-- State at exit 1 of `L_2TAG_PACKET_0_0_2`, from the state at the previous exit (or at entry). -/
def L_2TAG_PACKET_0_0_2_1 (cpu : Cpu) (s : Machine) : Machine :=
  let s := bind Label.L_2TAG_PACKET_0_0_2 s
  let s := movq_xm xmm0 0 s
  let s := movq_xm xmm1 0 s
  let s := addl_ri eax 16 s
  let s := cmpl_ri eax 32768 s
  s

/-- State at exit 2 of `L_2TAG_PACKET_0_0_2`, from the state at the previous exit (or at entry). -/
def L_2TAG_PACKET_0_0_2_2 (cpu : Cpu) (s : Machine) : Machine :=
  let s := cmpl_ri eax 16 s
  s

/-- State at exit 3 of `L_2TAG_PACKET_0_0_2`, from the state at the previous exit (or at entry). -/
def L_2TAG_PACKET_0_0_2_3 (cpu : Cpu) (s : Machine) : Machine :=
  s

/-- State at exit 1 of `start`, from the state at the previous exit (or at entry). -/
def start_1 (cpu : Cpu) (s : Machine) : Machine :=
  let s := bind Label.start s
  let s := subq_rsp 24 s
  let s := movsd_mx 0 xmm0 s
  let s := mov64 eax 0x3ff0000000000000 s
  let s := movdq_xr xmm2 eax s
  let s := mov64 edx 0x77f0000000000000 s
  let s := movdq_xr xmm3 edx s
  let s := movl_ri ecx 32768 s
  let s := movdl_xr xmm4 ecx s
  let s := mov64 tmp1 0xffffe00000000000 s
  let s := movdq_xr xmm5 tmp1 s
  let s := movdqu_xx xmm1 xmm0 s
  let s := pextrw eax xmm0 3 s
  let s := por xmm0 xmm2 s
  let s := movl_ri ecx 16352 s
  let s := psrlq xmm0 27 s
  let s := lea tmp2 Tbl.L_tbl s
  let s := psrld xmm0 2 s
  let s := rcpps cpu.rcp xmm0 xmm0 s
  let s := psllq xmm1 12 s
  let s := pshufd xmm6 xmm5 228 s
  let s := psrlq xmm1 12 s
  let s := subl_ri eax 16 s
  let s := cmpl_ri eax 32736 s
  s

/-- State at exit 2 of `start`, from the state at the previous exit (or at entry). -/
def start_2 (cpu : Cpu) (s : Machine) : Machine :=
  s

/-- State at exit 1 of `entry`, from the state at the previous exit (or at entry). -/
def entry_1 (cpu : Cpu) (s : Machine) : Machine :=
  let s := bind Label.entry s
  s

end fast_log

end MacroAssembler

namespace MacroAssembler
open XReg GReg

namespace fast_pow

/-- State at exit 1 of `B1_5`, from the state at the previous exit (or at entry). -/
def B1_5_1 (cpu : Cpu) (s : Machine) : Machine :=
  let s := bind Label.B1_5 s
  let s := addq_rsp 40 s
  s

/-- State at exit 1 of `L_2TAG_PACKET_56_0_2`, from the state at the previous exit (or at entry). -/
def L_2TAG_PACKET_56_0_2_1 (cpu : Cpu) (s : Machine) : Machine :=
  let s := bind Label.L_2TAG_PACKET_56_0_2 s
  s

/-- State at exit 1 of `B1_3`, from the state at the previous exit (or at entry). -/
def B1_3_1 (cpu : Cpu) (s : Machine) : Machine :=
  let s := bind Label.B1_3 s
  let s := movq_xm xmm0 24 s
  s

/-- State at exit 1 of `L_2TAG_PACKET_17_0_2`, from the state at the previous exit (or at entry). -/
def L_2TAG_PACKET_17_0_2_1 (cpu : Cpu) (s : Machine) : Machine :=
  let s := bind Label.L_2TAG_PACKET_17_0_2 s
  let s := movq_mx 24 xmm0 s
  s

/-- State at exit 1 of `L_2TAG_PACKET_44_0_2`, from the state at the previous exit (or at entry). -/
def L_2TAG_PACKET_44_0_2_1 (cpu : Cpu) (s : Machine) : Machine :=
  let s := bind Label.L_2TAG_PACKET_44_0_2 s
  let s := movl_ri eax 16368 s
  let s := xorpd xmm1 xmm1 s
  let s := pinsrw xmm1 eax 3 s
  let s := divsd xmm1 xmm0 s
  let s := movdqu_xx xmm0 xmm1 s
  let s := movl_mi 0 27 s
  s

/-- State at exit 1 of `L_2TAG_PACKET_22_0_2`, from the state at the previous exit (or at entry). -/
def L_2TAG_PACKET_22_0_2_1 (cpu : Cpu) (s : Machine) : Machine :=
  let s := bind Label.L_2TAG_PACKET_22_0_2 s
  let s := xorpd xmm0 xmm0 s
  s

/-- State at exit 1 of `L_2TAG_PACKET_41_0_2`, from the state at the previous exit (or at entry). -/
def L_2TAG_PACKET_41_0_2_1 (cpu : Cpu) (s : Machine) : Machine :=
  let s := bind Label.L_2TAG_PACKET_41_0_2 s
  let s := testl_ri ecx 0x80000000 /- INT_MIN -/ s
  s

/-- State at exit 2 of `L_2TAG_PACKET_41_0_2`, from the state at the previous exit (or at entry). -/
def L_2TAG_PACKET_41_0_2_2 (cpu : Cpu) (s : Machine) : Machine :=
  let s := xorpd xmm0 xmm0 s
  s

/-- State at exit 1 of `L_2TAG_PACKET_43_0_2`, from the state at the previous exit (or at entry). -/
def L_2TAG_PACKET_43_0_2_1 (cpu : Cpu) (s : Machine) : Machine :=
  let s := bind Label.L_2TAG_PACKET_43_0_2 s
  let s := movq_xm xmm0 8 s
  let s := testl_ri ecx 0x80000000 /- INT_MIN -/ s
  s

/-- State at exit 2 of `L_2TAG_PACKET_43_0_2`, from the state at the previous exit (or at entry). -/
def L_2TAG_PACKET_43_0_2_2 (cpu : Cpu) (s : Machine) : Machine :=
  s

/-- State at exit 1 of `L_2TAG_PACKET_42_0_2`, from the state at the previous exit (or at entry). -/
def L_2TAG_PACKET_42_0_2_1 (cpu : Cpu) (s : Machine) : Machine :=
  let s := bind Label.L_2TAG_PACKET_42_0_2 s
  let s := movq_xm xmm1 16 s
  let s := movdl_rx eax xmm1 s
  let s := testl_ri eax 1 s
  s

/-- State at exit 2 of `L_2TAG_PACKET_42_0_2`, from the state at the previous exit (or at entry). -/
def L_2TAG_PACKET_42_0_2_2 (cpu : Cpu) (s : Machine) : Machine :=
  s

/-- State at exit 1 of `L_2TAG_PACKET_39_0_2`, from the state at the previous exit (or at entry). -/
def L_2TAG_PACKET_39_0_2_1 (cpu : Cpu) (s : Machine) : Machine :=
  let s := bind Label.L_2TAG_PACKET_39_0_2 s
  let s := xorpd xmm0 xmm0 s
  let s := movl_ri eax 16368 s
  let s := pinsrw xmm0 eax 3 s
  let s := movl_mi 0 26 s
  s

/-- State at exit 1 of `L_2TAG_PACKET_40_0_2`, from the state at the previous exit (or at entry). -/
def L_2TAG_PACKET_40_0_2_1 (cpu : Cpu) (s : Machine) : Machine :=
  let s := bind Label.L_2TAG_PACKET_40_0_2 s
  let s := movdl_rx eax xmm1 s
  let s := psrlq xmm1 32 s
  let s := movdl_rx edx xmm1 s
  let s := movl_rr ecx edx s
  let s := addl_rr edx edx s
  let s := orl_rr eax edx s
  s

/-- State at exit 2 of `L_2TAG_PACKET_40_0_2`, from the state at the previous exit (or at entry). -/
def L_2TAG_PACKET_40_0_2_2 (cpu : Cpu) (s : Machine) : Machine :=
  let s := shrl edx 21 s
  let s := cmpl_ri edx 1075 s
  s

/-- State at exit 3 of `L_2TAG_PACKET_40_0_2`, from the state at the previous exit (or at entry). -/
def L_2TAG_PACKET_40_0_2_3 (cpu : Cpu) (s : Machine) : Machine :=
  s

/-- State at exit 4 of `L_2TAG_PACKET_40_0_2`, from the state at the previous exit (or at entry). -/
def L_2TAG_PACKET_40_0_2_4 (cpu : Cpu) (s : Machine) : Machine :=
  let s := cmpl_ri edx 1023 s
  s

/-- State at exit 5 of `L_2TAG_PACKET_40_0_2`, from the state at the previous exit (or at entry). -/
def L_2TAG_PACKET_40_0_2_5 (cpu : Cpu) (s : Machine) : Machine :=
  let s := movq_xm xmm1 16 s
  let s := movl_ri eax 17208 s
  let s := xorpd xmm3 xmm3 s
  let s := pinsrw xmm3 eax 3 s
  let s := movdqu_xx xmm4 xmm3 s
  let s := addsd xmm3 xmm1 s
  let s := subsd xmm4 xmm3 s
  let s := addsd xmm1 xmm4 s
  let s := pextrw eax xmm1 3 s
  let s := andl_ri eax 32752 s
  s

/-- State at exit 6 of `L_2TAG_PACKET_40_0_2`, from the state at the previous exit (or at entry). -/
def L_2TAG_PACKET_40_0_2_6 (cpu : Cpu) (s : Machine) : Machine :=
  let s := movdl_rx eax xmm3 s
  let s := andl_ri eax 1 s
  s

/-- State at exit 7 of `L_2TAG_PACKET_40_0_2`, from the state at the previous exit (or at entry). -/
def L_2TAG_PACKET_40_0_2_7 (cpu : Cpu) (s : Machine) : Machine :=
  s

/-- State at exit 1 of `L_2TAG_PACKET_18_0_2`, from the state at the previous exit (or at entry). -/
def L_2TAG_PACKET_18_0_2_1 (cpu : Cpu) (s : Machine) : Machine :=
  let s := bind Label.L_2TAG_PACKET_18_0_2 s
  let s := movq_xm xmm0 16 s
  let s := addpd xmm0 xmm0 s
  s

/-- State at exit 1 of `L_2TAG_PACKET_9_0_2`, from the state at the previous exit (or at entry). -/
def L_2TAG_PACKET_9_0_2_1 (cpu : Cpu) (s : Machine) : Machine :=
  let s := bind Label.L_2TAG_PACKET_9_0_2 s
  let s := movq_xm xmm1 16 s
  let s := movdqu_xx xmm2 xmm1 s
  let s := pextrw eax xmm1 3 s
  let s := andl_ri eax 32752 s
  let s := cmpl_ri eax 32752 s
  s

/-- State at exit 2 of `L_2TAG_PACKET_9_0_2`, from the state at the previous exit (or at entry). -/
def L_2TAG_PACKET_9_0_2_2 (cpu : Cpu) (s : Machine) : Machine :=
  let s := movdl_rx eax xmm2 s
  let s := psrlq xmm2 20 s
  let s := movdl_rx edx xmm2 s
  let s := orl_rr eax edx s
  s

/-- State at exit 3 of `L_2TAG_PACKET_9_0_2`, from the state at the previous exit (or at entry). -/
def L_2TAG_PACKET_9_0_2_3 (cpu : Cpu) (s : Machine) : Machine :=
  s

/-- State at exit 1 of `L_2TAG_PACKET_37_0_2`, from the state at the previous exit (or at entry). -/
def L_2TAG_PACKET_37_0_2_1 (cpu : Cpu) (s : Machine) : Machine :=
  let s := bind Label.L_2TAG_PACKET_37_0_2 s
  let s := xorpd xmm0 xmm0 s
  let s := movl_ri eax 16368 s
  let s := pinsrw xmm0 eax 3 s
  s

/-- State at exit 1 of `L_2TAG_PACKET_48_0_2`, from the state at the previous exit (or at entry). -/
def L_2TAG_PACKET_48_0_2_1 (cpu : Cpu) (s : Machine) : Machine :=
  let s := bind Label.L_2TAG_PACKET_48_0_2 s
  let s := movl_mi 0 25 s
  s

/-- State at exit 1 of `L_2TAG_PACKET_50_0_2`, from the state at the previous exit (or at entry). -/
def L_2TAG_PACKET_50_0_2_1 (cpu : Cpu) (s : Machine) : Machine :=
  let s := bind Label.L_2TAG_PACKET_50_0_2 s
  s

/-- State at exit 1 of `L_2TAG_PACKET_49_0_2`, from the state at the previous exit (or at entry). -/
def L_2TAG_PACKET_49_0_2_1 (cpu : Cpu) (s : Machine) : Machine :=
  let s := bind Label.L_2TAG_PACKET_49_0_2 s
  let s := movdl_xr xmm0 eax s
  let s := psllq xmm0 32 s
  let s := pand xmm0 xmm5 s
  let s := subsd xmm5 xmm0 s
  let s := addsd xmm5 xmm1 s
  let s := mulsd xmm0 xmm4 s
  let s := mulsd xmm5 xmm4 s
  let s := addsd xmm0 xmm5 s
  s

/-- State at exit 1 of `L_2TAG_PACKET_13_0_2`, from the state at the previous exit (or at entry). -/
def L_2TAG_PACKET_13_0_2_1 (cpu : Cpu) (s : Machine) : Machine :=
  let s := bind Label.L_2TAG_PACKET_13_0_2 s
  let s := pextrw ecx xmm5 3 s
  let s := pextrw edx xmm4 3 s
  let s := movl_ri eax 0xFFFFFFFF /- -1 -/ s
  let s := andl_ri ecx 32752 s
  let s := subl_ri ecx 16368 s
  let s := andl_ri edx 32752 s
  let s := addl_rr edx ecx s
  let s := movl_ri ecx 0xFFFFFFE1 /- -31 -/ s
  let s := sarl edx 4 s
  let s := subl_rr ecx edx s
  s

/-- State at exit 2 of `L_2TAG_PACKET_13_0_2`, from the state at the previous exit (or at entry). -/
def L_2TAG_PACKET_13_0_2_2 (cpu : Cpu) (s : Machine) : Machine :=
  let s := cmpl_ri ecx 20 s
  s

/-- State at exit 3 of `L_2TAG_PACKET_13_0_2`, from the state at the previous exit (or at entry). -/
def L_2TAG_PACKET_13_0_2_3 (cpu : Cpu) (s : Machine) : Machine :=
  let s := shll_cl eax s
  s

/-- State at exit 1 of `L_2TAG_PACKET_14_0_2`, from the state at the previous exit (or at entry). -/
def L_2TAG_PACKET_14_0_2_1 (cpu : Cpu) (s : Machine) : Machine :=
  let s := bind Label.L_2TAG_PACKET_14_0_2 s
  let s := movl_mi 0 24 s
  s

/-- State at exit 1 of `L_2TAG_PACKET_55_0_2`, from the state at the previous exit (or at entry). -/
def L_2TAG_PACKET_55_0_2_1 (cpu : Cpu) (s : Machine) : Machine :=
  let s := bind Label.L_2TAG_PACKET_55_0_2 s
  let s := movl_ri edx 32752 s
  let s := pinsrw xmm0 edx 3 s
  s

/-- State at exit 1 of `L_2TAG_PACKET_54_0_2`, from the state at the previous exit (or at entry). -/
def L_2TAG_PACKET_54_0_2_1 (cpu : Cpu) (s : Machine) : Machine :=
  let s := bind Label.L_2TAG_PACKET_54_0_2 s
  let s := pextrw eax xmm0 3 s
  let s := andl_ri eax 32752 s
  let s := pextrw edx xmm1 3 s
  let s := xorpd xmm0 xmm0 s
  let s := subl_ri eax 16368 s
  let s := xorl_rr eax edx s
  let s := testl_ri eax 32768 s
  s

/-- State at exit 2 of `L_2TAG_PACKET_54_0_2`, from the state at the previous exit (or at entry). -/
def L_2TAG_PACKET_54_0_2_2 (cpu : Cpu) (s : Machine) : Machine :=
  s

/-- State at exit 1 of `L_2TAG_PACKET_53_0_2`, from the state at the previous exit (or at entry). -/
def L_2TAG_PACKET_53_0_2_1 (cpu : Cpu) (s : Machine) : Machine :=
  let s := bind Label.L_2TAG_PACKET_53_0_2 s
  let s := movq_xm xmm1 16 s
  let s := movdl_rx edx xmm1 s
  let s := movdqu_xx xmm3 xmm1 s
  let s := psrlq xmm3 20 s
  let s := movdl_rx ecx xmm3 s
  let s := orl_rr ecx edx s
  s

/-- State at exit 2 of `L_2TAG_PACKET_53_0_2`, from the state at the previous exit (or at entry). -/
def L_2TAG_PACKET_53_0_2_2 (cpu : Cpu) (s : Machine) : Machine :=
  let s := addsd xmm1 xmm1 s
  let s := movdqu_xx xmm0 xmm1 s
  s

/-- State at exit 1 of `L_2TAG_PACKET_45_0_2`, from the state at the previous exit (or at entry). -/
def L_2TAG_PACKET_45_0_2_1 (cpu : Cpu) (s : Machine) : Machine :=
  let s := bind Label.L_2TAG_PACKET_45_0_2 s
  let s := movq_xm xmm0 8 s
  let s := xorpd xmm2 xmm2 s
  let s := movl_ri eax 49136 s
  let s := pinsrw xmm2 eax 3 s
  let s := addsd xmm2 xmm0 s
  let s := pextrw eax xmm2 3 s
  let s := cmpl_ri eax 0 s
  s

/-- State at exit 2 of `L_2TAG_PACKET_45_0_2`, from the state at the previous exit (or at entry). -/
def L_2TAG_PACKET_45_0_2_2 (cpu : Cpu) (s : Machine) : Machine :=
  let s := xorpd xmm0 xmm0 s
  let s := movl_ri eax 32760 s
  let s := pinsrw xmm0 eax 3 s
  s

/-- State at exit 1 of `L_2TAG_PACKET_46_0_2`, from the state at the previous exit (or at entry). -/
def L_2TAG_PACKET_46_0_2_1 (cpu : Cpu) (s : Machine) : Machine :=
  let s := bind Label.L_2TAG_PACKET_46_0_2 s
  let s := movl_ri eax 16 s
  let s := pinsrw xmm0 eax 3 s
  let s := mulsd xmm0 xmm0 s
  let s := testl_ri tmp1 0x80000000 /- INT_MIN -/ s
  s

/-- State at exit 2 of `L_2TAG_PACKET_46_0_2`, from the state at the previous exit (or at entry). -/
def L_2TAG_PACKET_46_0_2_2 (cpu : Cpu) (s : Machine) : Machine :=
  let s := mov64 tmp2 0x8000000000000000 s
  let s := movdq_xr xmm2 tmp2 s
  let s := xorpd xmm0 xmm2 s
  s

/-- State at exit 1 of `L_2TAG_PACKET_47_0_2`, from the state at the previous exit (or at entry). -/
def L_2TAG_PACKET_47_0_2_1 (cpu : Cpu) (s : Machine) : Machine :=
  let s := bind Label.L_2TAG_PACKET_47_0_2 s
  let s := movl_ri eax 32736 s
  let s := pinsrw xmm0 eax 3 s
  let s := shrl tmp1 16 s
  let s := orl_rr eax tmp1 s
  let s := pinsrw xmm1 eax 3 s
  let s := mulsd xmm0 xmm1 s
  s

/-- State at exit 1 of `L_2TAG_PACKET_12_0_2`, from the state at the previous exit (or at entry). -/
def L_2TAG_PACKET_12_0_2_1 (cpu : Cpu) (s : Machine) : Machine :=
  let s := bind Label.L_2TAG_PACKET_12_0_2 s
  let s := movq_xm xmm2 8 s
  let s := movq_xm xmm6 16 s
  let s := pextrw eax xmm2 3 s
  let s := pextrw edx xmm6 3 s
  let s := movl_ri ecx 32752 s
  let s := andl_rr ecx edx s
  let s := cmpl_ri ecx 32752 s
  s

/-- State at exit 2 of `L_2TAG_PACKET_12_0_2`, from the state at the previous exit (or at entry). -/
def L_2TAG_PACKET_12_0_2_2 (cpu : Cpu) (s : Machine) : Machine :=
  let s := andl_ri eax 32752 s
  let s := subl_ri eax 16368 s
  let s := xorl_rr edx eax s
  let s := testl_ri edx 32768 s
  s

/-- State at exit 3 of `L_2TAG_PACKET_12_0_2`, from the state at the previous exit (or at entry). -/
def L_2TAG_PACKET_12_0_2_3 (cpu : Cpu) (s : Machine) : Machine :=
  s

/-- State at exit 1 of `L_2TAG_PACKET_38_0_2`, from the state at the previous exit (or at entry). -/
def L_2TAG_PACKET_38_0_2_1 (cpu : Cpu) (s : Machine) : Machine :=
  let s := bind Label.L_2TAG_PACKET_38_0_2 s
  s

/-- State at exit 1 of `L_2TAG_PACKET_11_0_2`, from the state at the previous exit (or at entry). -/
def L_2TAG_PACKET_11_0_2_1 (cpu : Cpu) (s : Machine) : Machine :=
  let s := bind Label.L_2TAG_PACKET_11_0_2 s
  let s := addl_ri eax 384 s
  let s := cmpl_ri eax 0 s
  s

/-- State at exit 2 of `L_2TAG_PACKET_11_0_2`, from the state at the previous exit (or at entry). -/
def L_2TAG_PACKET_11_0_2_2 (cpu : Cpu) (s : Machine) : Machine :=
  let s := mulsd xmm5 xmm1 s
  let s := addsd xmm0 xmm7 s
  let s := shrl tmp1 31 s
  let s := addpd xmm3 xmm0 s
  let s := pshufd xmm0 xmm3 238 s
  let s := addsd xmm3 xmm0 s
  let s := lea tmp4 Tbl.log2_pow s
  let s := movq_xi xmm4 tmp4 tmp1 8 0 s
  let s := mulsd xmm1 xmm3 s
  let s := xorpd xmm0 xmm0 s
  let s := movl_ri eax 16368 s
  let s := shll_ri tmp1 15 s
  let s := orl_rr eax tmp1 s
  let s := pinsrw xmm0 eax 3 s
  let s := addsd xmm5 xmm1 s
  let s := mulsd xmm5 xmm4 s
  let s := addsd xmm0 xmm5 s
  s

/-- State at exit 1 of `L_2TAG_PACKET_5_0_2`, from the state at the previous exit (or at entry). -/
def L_2TAG_PACKET_5_0_2_1 (cpu : Cpu) (s : Machine) : Machine :=
  let s := bind Label.L_2TAG_PACKET_5_0_2 s
  let s := cmpl_ri eax 0 s
  s

/-- State at exit 2 of `L_2TAG_PACKET_5_0_2`, from the state at the previous exit (or at entry). -/
def L_2TAG_PACKET_5_0_2_2 (cpu : Cpu) (s : Machine) : Machine :=
  let s := cmpl_ri eax 752 s
  s

/-- State at exit 3 of `L_2TAG_PACKET_5_0_2`, from the state at the previous exit (or at entry). -/
def L_2TAG_PACKET_5_0_2_3 (cpu : Cpu) (s : Machine) : Machine :=
  let s := addsd xmm0 xmm7 s
  let s := movq_xe xmm2 Tbl.HALFMASK 0 s
  let s := addpd xmm3 xmm0 s
  let s := xorpd xmm6 xmm6 s
  let s := movl_ri eax 17080 s
  let s := pinsrw xmm6 eax 3 s
  let s := pshufd xmm0 xmm3 238 s
  let s := addsd xmm0 xmm3 s
  let s := movdqu_xx xmm3 xmm5 s
  let s := addsd xmm5 xmm0 s
  let s := movdqu_xx xmm4 xmm2 s
  let s := subsd xmm3 xmm5 s
  let s := movdqu_xx xmm7 xmm5 s
  let s := pand xmm5 xmm2 s
  let s := movdqu_xx xmm2 xmm1 s
  let s := pand xmm4 xmm1 s
  let s := subsd xmm7 xmm5 s
  let s := addsd xmm0 xmm3 s
  let s := subsd xmm1 xmm4 s
  let s := mulsd xmm4 xmm5 s
  let s := addsd xmm0 xmm7 s
  let s := mulsd xmm2 xmm0 s
  let s := movdqu_xx xmm7 xmm6 s
  let s := mulsd xmm1 xmm5 s
  let s := addsd xmm6 xmm4 s
  let s := movdl_rx eax xmm6 s
  let s := subsd xmm6 xmm7 s
  let s := lea tmp4 Tbl.T_exp s
  let s := addsd xmm2 xmm1 s
  let s := movdqu_xe xmm7 Tbl.e_coeff 0 s
  let s := movdqu_xe xmm3 Tbl.e_coeff 16 s
  let s := subsd xmm4 xmm6 s
  let s := pextrw edx xmm6 3 s
  let s := movl_rr ecx eax s
  let s := andl_ri eax 255 s
  let s := addl_rr eax eax s
  let s := movdqu_xi xmm5 tmp4 eax 8 0 s
  let s := addsd xmm2 xmm4 s
  let s := sarl ecx 8 s
  let s := movl_rr eax ecx s
  let s := sarl ecx 1 s
  let s := subl_rr eax ecx s
  let s := shll_ri ecx 20 s
  let s := xorl_rr ecx tmp1 s
  let s := movdl_xr xmm6 ecx s
  let s := movq_xe xmm1 Tbl.e_coeff 32 s
  let s := andl_ri edx 32767 s
  let s := cmpl_ri edx 16529 s
  s

/-- State at exit 4 of `L_2TAG_PACKET_5_0_2`, from the state at the previous exit (or at entry). -/
def L_2TAG_PACKET_5_0_2_4 (cpu : Cpu) (s : Machine) : Machine :=
  let s := pshufd xmm0 xmm2 68 s
  let s := pshufd xmm4 xmm2 68 s
  let s := mulpd xmm0 xmm0 s
  let s := mulpd xmm7 xmm4 s
  let s := pshufd xmm6 xmm6 17 s
  let s := mulsd xmm1 xmm2 s
  let s := mulsd xmm0 xmm0 s
  let s := paddd xmm5 xmm6 s
  let s := addpd xmm3 xmm7 s
  let s := mulsd xmm1 xmm5 s
  let s := pshufd xmm6 xmm5 238 s
  let s := mulpd xmm0 xmm3 s
  let s := addsd xmm1 xmm6 s
  let s := pshufd xmm3 xmm0 238 s
  let s := mulsd xmm0 xmm5 s
  let s := mulsd xmm3 xmm5 s
  let s := shll_ri eax 4 s
  let s := xorpd xmm4 xmm4 s
  let s := addl_ri eax 16368 s
  let s := pinsrw xmm4 eax 3 s
  let s := addsd xmm0 xmm1 s
  let s := addsd xmm0 xmm3 s
  let s := movdqu_xx xmm1 xmm0 s
  let s := addsd xmm0 xmm5 s
  let s := mulsd xmm0 xmm4 s
  let s := pextrw eax xmm0 3 s
  let s := andl_ri eax 32752 s
  s

/-- State at exit 5 of `L_2TAG_PACKET_5_0_2`, from the state at the previous exit (or at entry). -/
def L_2TAG_PACKET_5_0_2_5 (cpu : Cpu) (s : Machine) : Machine :=
  let s := cmpl_ri eax 32752 s
  s

/-- State at exit 6 of `L_2TAG_PACKET_5_0_2`, from the state at the previous exit (or at entry). -/
def L_2TAG_PACKET_5_0_2_6 (cpu : Cpu) (s : Machine) : Machine :=
  s

/-- State at exit 1 of `L_2TAG_PACKET_4_0_2`, from the state at the previous exit (or at entry). -/
def L_2TAG_PACKET_4_0_2_1 (cpu : Cpu) (s : Machine) : Machine :=
  let s := bind Label.L_2TAG_PACKET_4_0_2 s
  let s := mulsd xmm3 xmm0 s
  let s := movdqu_xe xmm1 Tbl.coeff_pow 0 s
  let s := lea tmp4 Tbl.L_tbl_pow s
  let s := subsd xmm5 xmm2 s
  let s := movdqu_xe xmm4 Tbl.coeff_pow 16 s
  let s := movl_rr ecx eax s
  let s := sarl eax 31 s
  let s := addl_rr ecx eax s
  let s := xorl_rr eax ecx s
  let s := addl_ri eax 1 s
  let s := bsrl eax eax s
  let s := unpcklpd xmm5 xmm3 s
  let s := movdqu_xe xmm6 Tbl.coeff_pow 32 s
  let s := addsd xmm3 xmm5 s
  let s := andl_ri edx 16760832 s
  let s := shrl edx 10 s
  let s := addpd_xi xmm5 tmp4 edx 1 (2 ^ 64 - 3648) s
  let s := movdqu_xe xmm0 Tbl.coeff_pow 48 s
  let s := pshufd xmm2 xmm3 68 s
  let s := mulsd xmm3 xmm3 s
  let s := mulpd xmm1 xmm2 s
  let s := mulpd xmm4 xmm2 s
  let s := addsd xmm5 xmm7 s
  let s := mulsd xmm2 xmm3 s
  let s := addpd xmm6 xmm1 s
  let s := mulsd xmm3 xmm3 s
  let s := addpd xmm0 xmm4 s
  let s := movq_xm xmm1 16 s
  let s := movw_rm ecx 22 s
  let s := pshufd xmm7 xmm5 238 s
  let s := movq_xe xmm4 Tbl.HIGHMASK_Y 0 s
  let s := mulpd xmm6 xmm2 s
  let s := pshufd xmm3 xmm3 68 s
  let s := mulpd xmm0 xmm2 s
  let s := shll_ri eax 4 s
  let s := subl_ri eax 15872 s
  let s := andl_ri ecx 32752 s
  let s := addl_rr eax ecx s
  let s := mulpd xmm3 xmm6 s
  let s := cmpl_ri eax 624 s
  s

/-- State at exit 2 of `L_2TAG_PACKET_4_0_2`, from the state at the previous exit (or at entry). -/
def L_2TAG_PACKET_4_0_2_2 (cpu : Cpu) (s : Machine) : Machine :=
  let s := xorpd xmm6 xmm6 s
  let s := movl_ri edx 17080 s
  let s := pinsrw xmm6 edx 3 s
  let s := movdqu_xx xmm2 xmm1 s
  let s := pand xmm4 xmm1 s
  let s := subsd xmm1 xmm4 s
  let s := mulsd xmm4 xmm5 s
  let s := addsd xmm0 xmm7 s
  let s := mulsd xmm1 xmm5 s
  let s := movdqu_xx xmm7 xmm6 s
  let s := addsd xmm6 xmm4 s
  let s := lea tmp4 Tbl.T_exp s
  let s := addpd xmm3 xmm0 s
  let s := movdl_rx edx xmm6 s
  let s := subsd xmm6 xmm7 s
  let s := pshufd xmm0 xmm3 238 s
  let s := subsd xmm4 xmm6 s
  let s := addsd xmm0 xmm3 s
  let s := movl_rr ecx edx s
  let s := andl_ri edx 255 s
  let s := addl_rr edx edx s
  let s := movdqu_xi xmm5 tmp4 edx 8 0 s
  let s := addsd xmm4 xmm1 s
  let s := mulsd xmm2 xmm0 s
  let s := movdqu_xe xmm7 Tbl.e_coeff 0 s
  let s := movdqu_xe xmm3 Tbl.e_coeff 16 s
  let s := shll_ri ecx 12 s
  let s := xorl_rr ecx tmp1 s
  let s := andl_ri ecx 0xFFF00000 /- -1048576 -/ s
  let s := movdq_xr xmm6 ecx s
  let s := addsd xmm2 xmm4 s
  let s := mov64 tmp2 0x3fe62e42fefa39ef s
  let s := movdq_xr xmm1 tmp2 s
  let s := pshufd xmm0 xmm2 68 s
  let s := pshufd xmm4 xmm2 68 s
  let s := mulsd xmm1 xmm2 s
  let s := pshufd xmm6 xmm6 17 s
  let s := mulpd xmm0 xmm0 s
  let s := mulpd xmm7 xmm4 s
  let s := paddd xmm5 xmm6 s
  let s := mulsd xmm1 xmm5 s
  let s := pshufd xmm6 xmm5 238 s
  let s := mulsd xmm0 xmm0 s
  let s := addpd xmm3 xmm7 s
  let s := addsd xmm1 xmm6 s
  let s := mulpd xmm0 xmm3 s
  let s := pshufd xmm3 xmm0 238 s
  let s := mulsd xmm0 xmm5 s
  let s := mulsd xmm3 xmm5 s
  let s := addsd xmm0 xmm1 s
  let s := addsd xmm0 xmm3 s
  let s := addsd xmm0 xmm5 s
  s

/-- State at exit 1 of `L_2TAG_PACKET_8_0_2`, from the state at the previous exit (or at entry). -/
def L_2TAG_PACKET_8_0_2_1 (cpu : Cpu) (s : Machine) : Machine :=
  let s := bind Label.L_2TAG_PACKET_8_0_2 s
  let s := movq_xm xmm0 8 s
  let s := movq_xm xmm3 8 s
  let s := movdl_rx edx xmm3 s
  let s := psrlq xmm3 32 s
  let s := movdl_rx ecx xmm3 s
  let s := orl_rr edx ecx s
  let s := cmpl_ri edx 0 s
  s

/-- State at exit 2 of `L_2TAG_PACKET_8_0_2`, from the state at the previous exit (or at entry). -/
def L_2TAG_PACKET_8_0_2_2 (cpu : Cpu) (s : Machine) : Machine :=
  let s := xorpd xmm3 xmm3 s
  let s := movl_ri eax 18416 s
  let s := pinsrw xmm3 eax 3 s
  let s := mulsd xmm0 xmm3 s
  let s := xorpd xmm2 xmm2 s
  let s := movl_ri eax 16368 s
  let s := pinsrw xmm2 eax 3 s
  let s := movdqu_xx xmm3 xmm0 s
  let s := pextrw eax xmm0 3 s
  let s := por xmm0 xmm2 s
  let s := movl_ri ecx 18416 s
  let s := psrlq xmm0 27 s
  let s := movq_xe xmm2 Tbl.LOG2_E 0 s
  let s := psrld xmm0 2 s
  let s := rcpps cpu.rcp xmm0 xmm0 s
  let s := psllq xmm3 12 s
  let s := movdqu_xe xmm6 Tbl.HIGHSIGMASK 0 s
  let s := psrlq xmm3 12 s
  let s := mulss xmm0 xmm7 s
  let s := movl_ri edx 0xFFFFFC00 /- -1024 -/ s
  let s := movdl_xr xmm5 edx s
  let s := por xmm3 xmm1 s
  let s := paddd xmm0 xmm4 s
  let s := psllq xmm5 32 s
  let s := movdl_rx edx xmm0 s
  let s := psllq xmm0 29 s
  let s := pand xmm5 xmm3 s
  let s := movl_ri tmp1 0 s
  let s := pand xmm0 xmm6 s
  let s := subsd xmm3 xmm5 s
  let s := andl_ri eax 32752 s
  let s := subl_ri eax 18416 s
  let s := sarl eax 4 s
  let s := cvtsi2sdl xmm7 eax s
  let s := mulpd xmm5 xmm0 s
  s

/-- State at exit 1 of `L_2TAG_PACKET_51_0_2`, from the state at the previous exit (or at entry). -/
def L_2TAG_PACKET_51_0_2_1 (cpu : Cpu) (s : Machine) : Machine :=
  let s := bind Label.L_2TAG_PACKET_51_0_2 s
  let s := pextrw eax xmm1 3 s
  let s := pextrw ecx xmm2 3 s
  let s := xorl_rr eax ecx s
  let s := testl_ri eax 32768 s
  s

/-- State at exit 2 of `L_2TAG_PACKET_51_0_2`, from the state at the previous exit (or at entry). -/
def L_2TAG_PACKET_51_0_2_2 (cpu : Cpu) (s : Machine) : Machine :=
  s

/-- State at exit 1 of `L_2TAG_PACKET_52_0_2`, from the state at the previous exit (or at entry). -/
def L_2TAG_PACKET_52_0_2_1 (cpu : Cpu) (s : Machine) : Machine :=
  let s := bind Label.L_2TAG_PACKET_52_0_2 s
  s

/-- State at exit 1 of `L_2TAG_PACKET_3_0_2`, from the state at the previous exit (or at entry). -/
def L_2TAG_PACKET_3_0_2_1 (cpu : Cpu) (s : Machine) : Machine :=
  let s := bind Label.L_2TAG_PACKET_3_0_2 s
  let s := subsd xmm3 xmm5 s
  let s := pand xmm0 xmm6 s
  let s := subl_ri eax 1 s
  let s := sarl eax 4 s
  let s := cvtsi2sdl xmm7 eax s
  let s := mulpd xmm5 xmm0 s
  s

/-- State at exit 1 of `L_2TAG_PACKET_2_0_2`, from the state at the previous exit (or at entry). -/
def L_2TAG_PACKET_2_0_2_1 (cpu : Cpu) (s : Machine) : Machine :=
  let s := bind Label.L_2TAG_PACKET_2_0_2 s
  let s := movw_rm ecx 22 s
  let s := movl_ri edx 0x80000000 /- INT_MIN -/ s
  let s := movdl_xr xmm1 edx s
  let s := xorpd xmm7 xmm7 s
  let s := paddd xmm0 xmm4 s
  let s := movdl_rx edx xmm0 s
  let s := psllq xmm0 29 s
  let s := paddq xmm1 xmm3 s
  let s := pand xmm5 xmm1 s
  let s := andl_ri ecx 32752 s
  let s := cmpl_ri ecx 16560 s
  s

/-- State at exit 2 of `L_2TAG_PACKET_2_0_2`, from the state at the previous exit (or at entry). -/
def L_2TAG_PACKET_2_0_2_2 (cpu : Cpu) (s : Machine) : Machine :=
  let s := pand xmm0 xmm6 s
  let s := subsd xmm3 xmm5 s
  let s := addl_ri eax 16351 s
  let s := shrl eax 4 s
  let s := subl_ri eax 1022 s
  let s := cvtsi2sdl xmm7 eax s
  let s := mulpd xmm5 xmm0 s
  let s := lea tmp4 Tbl.L_tbl_pow s
  let s := movq_xe xmm4 Tbl.coeff_h 0 s
  let s := mulsd xmm3 xmm0 s
  let s := movq_xe xmm6 Tbl.coeff_h 0 s
  let s := subsd xmm5 xmm2 s
  let s := movq_xe xmm1 Tbl.coeff_h 8 s
  let s := pshufd xmm2 xmm3 68 s
  let s := unpcklpd xmm5 xmm3 s
  let s := addsd xmm3 xmm5 s
  let s := movq_xe xmm0 Tbl.coeff_h 8 s
  let s := andl_ri edx 16760832 s
  let s := shrl edx 10 s
  let s := addpd_xi xmm7 tmp4 edx 1 (2 ^ 64 - 3648) s
  let s := mulsd xmm4 xmm5 s
  let s := mulsd xmm0 xmm5 s
  let s := mulsd xmm6 xmm2 s
  let s := mulsd xmm1 xmm2 s
  let s := movdqu_xx xmm2 xmm5 s
  let s := mulsd xmm4 xmm5 s
  let s := addsd xmm5 xmm0 s
  let s := movdqu_xx xmm0 xmm7 s
  let s := addsd xmm2 xmm3 s
  let s := addsd xmm7 xmm5 s
  let s := mulsd xmm6 xmm2 s
  let s := subsd xmm0 xmm7 s
  let s := movdqu_xx xmm2 xmm7 s
  let s := addsd xmm7 xmm4 s
  let s := addsd xmm0 xmm5 s
  let s := subsd xmm2 xmm7 s
  let s := addsd xmm4 xmm2 s
  let s := pshufd xmm2 xmm5 238 s
  let s := movdqu_xx xmm5 xmm7 s
  let s := addsd xmm7 xmm2 s
  let s := addsd xmm4 xmm0 s
  let s := movdqu_xe xmm0 Tbl.coeff_pow 0 s
  let s := subsd xmm5 xmm7 s
  let s := addsd xmm6 xmm4 s
  let s := movdqu_xx xmm4 xmm7 s
  let s := addsd xmm5 xmm2 s
  let s := addsd xmm7 xmm1 s
  let s := movdqu_xe xmm2 Tbl.coeff_pow 64 s
  let s := subsd xmm4 xmm7 s
  let s := addsd xmm6 xmm5 s
  let s := addsd xmm4 xmm1 s
  let s := pshufd xmm5 xmm7 238 s
  let s := movapd xmm1 xmm7 s
  let s := addsd xmm7 xmm5 s
  let s := subsd xmm1 xmm7 s
  let s := addsd xmm1 xmm5 s
  let s := movdqu_xe xmm5 Tbl.coeff_pow 80 s
  let s := pshufd xmm3 xmm3 68 s
  let s := addsd xmm6 xmm4 s
  let s := addsd xmm6 xmm1 s
  let s := movdqu_xe xmm1 Tbl.coeff_pow 32 s
  let s := mulpd xmm0 xmm3 s
  let s := mulpd xmm2 xmm3 s
  let s := pshufd xmm4 xmm3 68 s
  let s := mulpd xmm3 xmm3 s
  let s := addpd xmm0 xmm1 s
  let s := addpd xmm5 xmm2 s
  let s := mulsd xmm4 xmm3 s
  let s := movq_xe xmm2 Tbl.HIGHMASK_LOG_X 0 s
  let s := mulpd xmm3 xmm3 s
  let s := movq_xm xmm1 16 s
  let s := movw_rm ecx 22 s
  let s := mulpd xmm0 xmm4 s
  let s := pextrw eax xmm7 3 s
  let s := mulpd xmm5 xmm4 s
  let s := mulpd xmm0 xmm3 s
  let s := movq_xe xmm4 Tbl.HIGHMASK_Y 8 s
  let s := pand xmm2 xmm7 s
  let s := addsd xmm5 xmm6 s
  let s := subsd xmm7 xmm2 s
  let s := addpd xmm5 xmm0 s
  let s := andl_ri eax 32752 s
  let s := subl_ri eax 16368 s
  let s := andl_ri ecx 32752 s
  let s := cmpl_ri ecx 32752 s
  s

/-- State at exit 3 of `L_2TAG_PACKET_2_0_2`, from the state at the previous exit (or at entry). -/
def L_2TAG_PACKET_2_0_2_3 (cpu : Cpu) (s : Machine) : Machine :=
  let s := addl_rr ecx eax s
  let s := cmpl_ri ecx 16576 s
  s

/-- State at exit 4 of `L_2TAG_PACKET_2_0_2`, from the state at the previous exit (or at entry). -/
def L_2TAG_PACKET_2_0_2_4 (cpu : Cpu) (s : Machine) : Machine :=
  let s := pshufd xmm0 xmm5 238 s
  let s := pand xmm4 xmm1 s
  let s := movdqu_xx xmm3 xmm1 s
  let s := addsd xmm5 xmm0 s
  let s := subsd xmm1 xmm4 s
  let s := xorpd xmm6 xmm6 s
  let s := movl_ri edx 17080 s
  let s := pinsrw xmm6 edx 3 s
  let s := addsd xmm7 xmm5 s
  let s := mulsd xmm4 xmm2 s
  let s := mulsd xmm1 xmm2 s
  let s := movdqu_xx xmm5 xmm6 s
  let s := mulsd xmm3 xmm7 s
  let s := addsd xmm6 xmm4 s
  let s := addsd xmm1 xmm3 s
  let s := movdqu_xe xmm7 Tbl.e_coeff 0 s
  let s := movdl_rx edx xmm6 s
  let s := subsd xmm6 xmm5 s
  let s := lea tmp4 Tbl.T_exp s
  let s := movdqu_xe xmm3 Tbl.e_coeff 16 s
  let s := movq_xe xmm2 Tbl.e_coeff 32 s
  let s := subsd xmm4 xmm6 s
  let s := movl_rr ecx edx s
  let s := andl_ri edx 255 s
  let s := addl_rr edx edx s
  let s := movdqu_xi xmm5 tmp4 edx 8 0 s
  let s := addsd xmm4 xmm1 s
  let s := pextrw edx xmm6 3 s
  let s := shrl ecx 8 s
  let s := movl_rr eax ecx s
  let s := shrl ecx 1 s
  let s := subl_rr eax ecx s
  let s := shll_ri ecx 20 s
  let s := movdl_xr xmm6 ecx s
  let s := pshufd xmm0 xmm4 68 s
  let s := pshufd xmm1 xmm4 68 s
  let s := mulpd xmm0 xmm0 s
  let s := mulpd xmm7 xmm1 s
  let s := pshufd xmm6 xmm6 17 s
  let s := mulsd xmm2 xmm4 s
  let s := andl_ri edx 32767 s
  let s := cmpl_ri edx 16529 s
  s

/-- State at exit 5 of `L_2TAG_PACKET_2_0_2`, from the state at the previous exit (or at entry). -/
def L_2TAG_PACKET_2_0_2_5 (cpu : Cpu) (s : Machine) : Machine :=
  let s := mulsd xmm0 xmm0 s
  let s := paddd xmm5 xmm6 s
  let s := addpd xmm3 xmm7 s
  let s := mulsd xmm2 xmm5 s
  let s := pshufd xmm6 xmm5 238 s
  let s := mulpd xmm0 xmm3 s
  let s := addsd xmm2 xmm6 s
  let s := pshufd xmm3 xmm0 238 s
  let s := addl_ri eax 1023 s
  let s := shll_ri eax 20 s
  let s := orl_rr eax tmp1 s
  let s := movdl_xr xmm4 eax s
  let s := mulsd xmm0 xmm5 s
  let s := mulsd xmm3 xmm5 s
  let s := addsd xmm0 xmm2 s
  let s := psllq xmm4 32 s
  let s := addsd xmm0 xmm3 s
  let s := movdqu_xx xmm1 xmm0 s
  let s := addsd xmm0 xmm5 s
  let s := mulsd xmm0 xmm4 s
  let s := pextrw eax xmm0 3 s
  let s := andl_ri eax 32752 s
  s

/-- State at exit 6 of `L_2TAG_PACKET_2_0_2`, from the state at the previous exit (or at entry). -/
def L_2TAG_PACKET_2_0_2_6 (cpu : Cpu) (s : Machine) : Machine :=
  let s := cmpl_ri eax 32752 s
  s

/-- State at exit 7 of `L_2TAG_PACKET_2_0_2`, from the state at the previous exit (or at entry). -/
def L_2TAG_PACKET_2_0_2_7 (cpu : Cpu) (s : Machine) : Machine :=
  s

/-- State at exit 1 of `L_2TAG_PACKET_1_0_2`, from the state at the previous exit (or at entry). -/
def L_2TAG_PACKET_1_0_2_1 (cpu : Cpu) (s : Machine) : Machine :=
  let s := bind Label.L_2TAG_PACKET_1_0_2 s
  let s := mulss xmm0 xmm7 s
  let s := movl_ri edx 0xFFFFFFFF /- -1 -/ s
  let s := subl_ri ecx 4 s
  let s := shll_cl edx s
  let s := shlq edx 32 s
  let s := movdq_xr xmm5 edx s
  let s := por xmm3 xmm1 s
  let s := subl_ri eax 16351 s
  let s := cmpl_ri eax 1 s
  s

/-- State at exit 2 of `L_2TAG_PACKET_1_0_2`, from the state at the previous exit (or at entry). -/
def L_2TAG_PACKET_1_0_2_2 (cpu : Cpu) (s : Machine) : Machine :=
  let s := paddd xmm0 xmm4 s
  let s := pand xmm5 xmm3 s
  let s := movdl_rx edx xmm0 s
  let s := psllq xmm0 29 s
  s

/-- State at exit 1 of `L_2TAG_PACKET_35_0_2`, from the state at the previous exit (or at entry). -/
def L_2TAG_PACKET_35_0_2_1 (cpu : Cpu) (s : Machine) : Machine :=
  let s := bind Label.L_2TAG_PACKET_35_0_2 s
  let s := xorpd xmm1 xmm1 s
  let s := movl_ri edx 30704 s
  let s := pinsrw xmm1 edx 3 s
  let s := movq_xe xmm2 Tbl.LOG2_E 0 s
  let s := movq_xm xmm4 8 s
  let s := pextrw eax xmm4 3 s
  let s := movl_ri edx 8192 s
  let s := movdl_xr xmm4 edx s
  let s := andl_ri eax 32767 s
  let s := subl_ri eax 16 s
  s

/-- State at exit 2 of `L_2TAG_PACKET_35_0_2`, from the state at the previous exit (or at entry). -/
def L_2TAG_PACKET_35_0_2_2 (cpu : Cpu) (s : Machine) : Machine :=
  let s := movl_rr edx eax s
  let s := andl_ri edx 32752 s
  let s := subl_ri edx 16368 s
  let s := movl_rr ecx edx s
  let s := sarl edx 31 s
  let s := addl_rr ecx edx s
  let s := xorl_rr ecx edx s
  let s := addl_ri ecx 16 s
  let s := bsrl ecx ecx s
  let s := movl_ri tmp1 0 s
  s

/-- State at exit 1 of `L_2TAG_PACKET_34_0_2`, from the state at the previous exit (or at entry). -/
def L_2TAG_PACKET_34_0_2_1 (cpu : Cpu) (s : Machine) : Machine :=
  let s := bind Label.L_2TAG_PACKET_34_0_2 s
  let s := xorpd xmm1 xmm1 s
  let s := movl_ri eax 32752 s
  let s := pinsrw xmm1 eax 3 s
  let s := xorpd xmm0 xmm0 s
  let s := mulsd xmm0 xmm1 s
  let s := movl_mi 0 28 s
  s

/-- State at exit 1 of `L_2TAG_PACKET_10_0_2`, from the state at the previous exit (or at entry). -/
def L_2TAG_PACKET_10_0_2_1 (cpu : Cpu) (s : Machine) : Machine :=
  let s := bind Label.L_2TAG_PACKET_10_0_2 s
  let s := movq_xm xmm0 8 s
  let s := movq_xm xmm3 8 s
  let s := movdl_rx edx xmm3 s
  let s := psrlq xmm3 32 s
  let s := movdl_rx ecx xmm3 s
  let s := orl_rr edx ecx s
  let s := cmpl_ri edx 0 s
  s

/-- State at exit 2 of `L_2TAG_PACKET_10_0_2`, from the state at the previous exit (or at entry). -/
def L_2TAG_PACKET_10_0_2_2 (cpu : Cpu) (s : Machine) : Machine :=
  let s := xorpd xmm3 xmm3 s
  let s := movl_ri eax 18416 s
  let s := pinsrw xmm3 eax 3 s
  let s := mulsd xmm0 xmm3 s
  let s := xorpd xmm2 xmm2 s
  let s := movl_ri eax 16368 s
  let s := pinsrw xmm2 eax 3 s
  let s := movdqu_xx xmm3 xmm0 s
  let s := pextrw eax xmm0 3 s
  let s := por xmm0 xmm2 s
  let s := movl_ri ecx 18416 s
  let s := psrlq xmm0 27 s
  let s := movq_xe xmm2 Tbl.LOG2_E 0 s
  let s := psrld xmm0 2 s
  let s := rcpps cpu.rcp xmm0 xmm0 s
  let s := psllq xmm3 12 s
  let s := movdqu_xe xmm6 Tbl.HIGHSIGMASK 0 s
  let s := psrlq xmm3 12 s
  let s := mulss xmm0 xmm7 s
  let s := movl_ri edx 0xFFFFFC00 /- -1024 -/ s
  let s := movdl_xr xmm5 edx s
  let s := por xmm3 xmm1 s
  let s := paddd xmm0 xmm4 s
  let s := psllq xmm5 32 s
  let s := movdl_rx edx xmm0 s
  let s := psllq xmm0 29 s
  let s := pand xmm5 xmm3 s
  let s := movl_ri tmp1 0x80000000 /- INT_MIN -/ s
  let s := pand xmm0 xmm6 s
  let s := subsd xmm3 xmm5 s
  let s := andl_ri eax 32752 s
  let s := subl_ri eax 18416 s
  let s := sarl eax 4 s
  let s := cvtsi2sdl xmm7 eax s
  let s := mulpd xmm5 xmm0 s
  s

/-- State at exit 1 of `L_2TAG_PACKET_36_0_2`, from the state at the previous exit (or at entry). -/
def L_2TAG_PACKET_36_0_2_1 (cpu : Cpu) (s : Machine) : Machine :=
  let s := bind Label.L_2TAG_PACKET_36_0_2 s
  let s := xorpd xmm1 xmm1 s
  let s := movl_ri edx 30704 s
  let s := pinsrw xmm1 edx 3 s
  let s := movq_xe xmm2 Tbl.LOG2_E 0 s
  let s := movq_xm xmm4 8 s
  let s := pextrw eax xmm4 3 s
  let s := movl_ri edx 8192 s
  let s := movdl_xr xmm4 edx s
  let s := andl_ri eax 32767 s
  let s := subl_ri eax 16 s
  s

/-- State at exit 2 of `L_2TAG_PACKET_36_0_2`, from the state at the previous exit (or at entry). -/
def L_2TAG_PACKET_36_0_2_2 (cpu : Cpu) (s : Machine) : Machine :=
  let s := movl_rr edx eax s
  let s := andl_ri edx 32752 s
  let s := subl_ri edx 16368 s
  let s := movl_rr ecx edx s
  let s := sarl edx 31 s
  let s := addl_rr ecx edx s
  let s := xorl_rr ecx edx s
  let s := addl_ri ecx 16 s
  let s := bsrl ecx ecx s
  let s := movl_ri tmp1 0x80000000 /- INT_MIN -/ s
  s

/-- State at exit 1 of `L_2TAG_PACKET_33_0_2`, from the state at the previous exit (or at entry). -/
def L_2TAG_PACKET_33_0_2_1 (cpu : Cpu) (s : Machine) : Machine :=
  let s := bind Label.L_2TAG_PACKET_33_0_2 s
  let s := testl_ri eax 1 s
  s

/-- State at exit 2 of `L_2TAG_PACKET_33_0_2`, from the state at the previous exit (or at entry). -/
def L_2TAG_PACKET_33_0_2_2 (cpu : Cpu) (s : Machine) : Machine :=
  s

/-- State at exit 1 of `L_2TAG_PACKET_32_0_2`, from the state at the previous exit (or at entry). -/
def L_2TAG_PACKET_32_0_2_1 (cpu : Cpu) (s : Machine) : Machine :=
  let s := bind Label.L_2TAG_PACKET_32_0_2 s
  let s := movdl_rx eax xmm1 s
  let s := cmpl_ri edx 17184 s
  s

/-- State at exit 2 of `L_2TAG_PACKET_32_0_2`, from the state at the previous exit (or at entry). -/
def L_2TAG_PACKET_32_0_2_2 (cpu : Cpu) (s : Machine) : Machine :=
  let s := testl_ri eax 1 s
  s

/-- State at exit 3 of `L_2TAG_PACKET_32_0_2`, from the state at the previous exit (or at entry). -/
def L_2TAG_PACKET_32_0_2_3 (cpu : Cpu) (s : Machine) : Machine :=
  let s := testl_ri eax 2 s
  s

/-- State at exit 4 of `L_2TAG_PACKET_32_0_2`, from the state at the previous exit (or at entry). -/
def L_2TAG_PACKET_32_0_2_4 (cpu : Cpu) (s : Machine) : Machine :=
  s

/-- State at exit 1 of `L_2TAG_PACKET_31_0_2`, from the state at the previous exit (or at entry). -/
def L_2TAG_PACKET_31_0_2_1 (cpu : Cpu) (s : Machine) : Machine :=
  let s := bind Label.L_2TAG_PACKET_31_0_2 s
  let s := movl_ri ecx 32752 s
  let s := pinsrw xmm0 ecx 3 s
  s

/-- State at exit 1 of `L_2TAG_PACKET_30_0_2`, from the state at the previous exit (or at entry). -/
def L_2TAG_PACKET_30_0_2_1 (cpu : Cpu) (s : Machine) : Machine :=
  let s := bind Label.L_2TAG_PACKET_30_0_2 s
  let s := movq_xm xmm1 16 s
  let s := andl_ri eax 32752 s
  let s := subl_ri eax 16368 s
  let s := pextrw edx xmm1 3 s
  let s := xorpd xmm0 xmm0 s
  let s := xorl_rr eax edx s
  let s := andl_ri eax 32768 s
  s

/-- State at exit 2 of `L_2TAG_PACKET_30_0_2`, from the state at the previous exit (or at entry). -/
def L_2TAG_PACKET_30_0_2_2 (cpu : Cpu) (s : Machine) : Machine :=
  s

/-- State at exit 1 of `L_2TAG_PACKET_29_0_2`, from the state at the previous exit (or at entry). -/
def L_2TAG_PACKET_29_0_2_1 (cpu : Cpu) (s : Machine) : Machine :=
  let s := bind Label.L_2TAG_PACKET_29_0_2 s
  let s := movq_xm xmm0 8 s
  let s := pextrw eax xmm0 3 s
  let s := cmpl_ri eax 49136 s
  s

/-- State at exit 2 of `L_2TAG_PACKET_29_0_2`, from the state at the previous exit (or at entry). -/
def L_2TAG_PACKET_29_0_2_2 (cpu : Cpu) (s : Machine) : Machine :=
  let s := movdl_rx ecx xmm0 s
  let s := psrlq xmm0 20 s
  let s := movdl_rx edx xmm0 s
  let s := orl_rr ecx edx s
  s

/-- State at exit 3 of `L_2TAG_PACKET_29_0_2`, from the state at the previous exit (or at entry). -/
def L_2TAG_PACKET_29_0_2_3 (cpu : Cpu) (s : Machine) : Machine :=
  let s := xorpd xmm0 xmm0 s
  let s := movl_ri eax 32760 s
  let s := pinsrw xmm0 eax 3 s
  s

/-- State at exit 1 of `L_2TAG_PACKET_28_0_2`, from the state at the previous exit (or at entry). -/
def L_2TAG_PACKET_28_0_2_1 (cpu : Cpu) (s : Machine) : Machine :=
  let s := bind Label.L_2TAG_PACKET_28_0_2 s
  let s := movdl_rx eax xmm1 s
  let s := psrlq xmm1 20 s
  let s := movdl_rx edx xmm1 s
  let s := orl_rr eax edx s
  s

/-- State at exit 2 of `L_2TAG_PACKET_28_0_2`, from the state at the previous exit (or at entry). -/
def L_2TAG_PACKET_28_0_2_2 (cpu : Cpu) (s : Machine) : Machine :=
  let s := movq_xm xmm0 16 s
  let s := addsd xmm0 xmm0 s
  s

/-- State at exit 1 of `L_2TAG_PACKET_7_0_2`, from the state at the previous exit (or at entry). -/
def L_2TAG_PACKET_7_0_2_1 (cpu : Cpu) (s : Machine) : Machine :=
  let s := bind Label.L_2TAG_PACKET_7_0_2 s
  let s := movq_xm xmm2 8 s
  let s := movdl_rx eax xmm2 s
  let s := psrlq xmm2 31 s
  let s := movdl_rx ecx xmm2 s
  let s := orl_rr eax ecx s
  s

/-- State at exit 2 of `L_2TAG_PACKET_7_0_2`, from the state at the previous exit (or at entry). -/
def L_2TAG_PACKET_7_0_2_2 (cpu : Cpu) (s : Machine) : Machine :=
  let s := movq_xm xmm1 16 s
  let s := pextrw edx xmm1 3 s
  let s := movdl_rx eax xmm1 s
  let s := movdqu_xx xmm2 xmm1 s
  let s := psrlq xmm2 32 s
  let s := movdl_rx ecx xmm2 s
  let s := addl_rr ecx ecx s
  let s := orl_rr ecx eax s
  s

/-- State at exit 3 of `L_2TAG_PACKET_7_0_2`, from the state at the previous exit (or at entry). -/
def L_2TAG_PACKET_7_0_2_3 (cpu : Cpu) (s : Machine) : Machine :=
  let s := andl_ri edx 32752 s
  let s := cmpl_ri edx 32752 s
  s

/-- State at exit 4 of `L_2TAG_PACKET_7_0_2`, from the state at the previous exit (or at entry). -/
def L_2TAG_PACKET_7_0_2_4 (cpu : Cpu) (s : Machine) : Machine :=
  let s := cmpl_ri edx 17200 s
  s

/-- State at exit 5 of `L_2TAG_PACKET_7_0_2`, from the state at the previous exit (or at entry). -/
def L_2TAG_PACKET_7_0_2_5 (cpu : Cpu) (s : Machine) : Machine :=
  let s := cmpl_ri edx 17184 s
  s

/-- State at exit 6 of `L_2TAG_PACKET_7_0_2`, from the state at the previous exit (or at entry). -/
def L_2TAG_PACKET_7_0_2_6 (cpu : Cpu) (s : Machine) : Machine :=
  let s := cmpl_ri edx 16368 s
  s

/-- State at exit 7 of `L_2TAG_PACKET_7_0_2`, from the state at the previous exit (or at entry). -/
def L_2TAG_PACKET_7_0_2_7 (cpu : Cpu) (s : Machine) : Machine :=
  let s := movl_ri eax 17208 s
  let s := xorpd xmm2 xmm2 s
  let s := pinsrw xmm2 eax 3 s
  let s := movdqu_xx xmm4 xmm2 s
  let s := addsd xmm2 xmm1 s
  let s := subsd xmm4 xmm2 s
  let s := addsd xmm1 xmm4 s
  let s := pextrw eax xmm1 3 s
  let s := andl_ri eax 32767 s
  s

/-- State at exit 8 of `L_2TAG_PACKET_7_0_2`, from the state at the previous exit (or at entry). -/
def L_2TAG_PACKET_7_0_2_8 (cpu : Cpu) (s : Machine) : Machine :=
  let s := movdl_rx eax xmm2 s
  let s := andl_ri eax 1 s
  s

/-- State at exit 9 of `L_2TAG_PACKET_7_0_2`, from the state at the previous exit (or at entry). -/
def L_2TAG_PACKET_7_0_2_9 (cpu : Cpu) (s : Machine) : Machine :=
  s

/-- State at exit 1 of `L_2TAG_PACKET_19_0_2`, from the state at the previous exit (or at entry). -/
def L_2TAG_PACKET_19_0_2_1 (cpu : Cpu) (s : Machine) : Machine :=
  let s := bind Label.L_2TAG_PACKET_19_0_2 s
  let s := xorpd xmm0 xmm0 s
  let s := movl_ri eax 16368 s
  let s := pinsrw xmm0 eax 3 s
  s

/-- State at exit 1 of `L_2TAG_PACKET_24_0_2`, from the state at the previous exit (or at entry). -/
def L_2TAG_PACKET_24_0_2_1 (cpu : Cpu) (s : Machine) : Machine :=
  let s := bind Label.L_2TAG_PACKET_24_0_2 s
  let s := movq_xm xmm1 16 s
  let s := pextrw eax xmm1 3 s
  let s := andl_ri eax 32768 s
  s

/-- State at exit 2 of `L_2TAG_PACKET_24_0_2`, from the state at the previous exit (or at entry). -/
def L_2TAG_PACKET_24_0_2_2 (cpu : Cpu) (s : Machine) : Machine :=
  let s := xorpd xmm0 xmm0 s
  let s := movl_ri eax 32752 s
  let s := pinsrw xmm0 eax 3 s
  s

/-- State at exit 1 of `L_2TAG_PACKET_27_0_2`, from the state at the previous exit (or at entry). -/
def L_2TAG_PACKET_27_0_2_1 (cpu : Cpu) (s : Machine) : Machine :=
  let s := bind Label.L_2TAG_PACKET_27_0_2 s
  let s := xorpd xmm0 xmm0 s
  let s := movl_ri eax 32768 s
  let s := pinsrw xmm0 eax 3 s
  s

/-- State at exit 1 of `L_2TAG_PACKET_25_0_2`, from the state at the previous exit (or at entry). -/
def L_2TAG_PACKET_25_0_2_1 (cpu : Cpu) (s : Machine) : Machine :=
  let s := bind Label.L_2TAG_PACKET_25_0_2 s
  let s := movq_xm xmm1 16 s
  let s := pextrw eax xmm1 3 s
  let s := andl_ri eax 32768 s
  s

/-- State at exit 2 of `L_2TAG_PACKET_25_0_2`, from the state at the previous exit (or at entry). -/
def L_2TAG_PACKET_25_0_2_2 (cpu : Cpu) (s : Machine) : Machine :=
  s

/-- State at exit 1 of `L_2TAG_PACKET_26_0_2`, from the state at the previous exit (or at entry). -/
def L_2TAG_PACKET_26_0_2_1 (cpu : Cpu) (s : Machine) : Machine :=
  let s := bind Label.L_2TAG_PACKET_26_0_2 s
  let s := movq_xm xmm1 16 s
  let s := movdl_rx eax xmm1 s
  let s := andl_ri eax 1 s
  s

/-- State at exit 2 of `L_2TAG_PACKET_26_0_2`, from the state at the previous exit (or at entry). -/
def L_2TAG_PACKET_26_0_2_2 (cpu : Cpu) (s : Machine) : Machine :=
  s

/-- State at exit 1 of `L_2TAG_PACKET_23_0_2`, from the state at the previous exit (or at entry). -/
def L_2TAG_PACKET_23_0_2_1 (cpu : Cpu) (s : Machine) : Machine :=
  let s := bind Label.L_2TAG_PACKET_23_0_2 s
  let s := movq_xm xmm1 16 s
  let s := movdl_rx eax xmm1 s
  let s := testl_ri eax 1 s
  s

/-- State at exit 2 of `L_2TAG_PACKET_23_0_2`, from the state at the previous exit (or at entry). -/
def L_2TAG_PACKET_23_0_2_2 (cpu : Cpu) (s : Machine) : Machine :=
  let s := testl_ri eax 2 s
  s

/-- State at exit 3 of `L_2TAG_PACKET_23_0_2`, from the state at the previous exit (or at entry). -/
def L_2TAG_PACKET_23_0_2_3 (cpu : Cpu) (s : Machine) : Machine :=
  s

/-- State at exit 1 of `L_2TAG_PACKET_21_0_2`, from the state at the previous exit (or at entry). -/
def L_2TAG_PACKET_21_0_2_1 (cpu : Cpu) (s : Machine) : Machine :=
  let s := bind Label.L_2TAG_PACKET_21_0_2 s
  let s := shrl ecx 20 s
  let s := andl_ri ecx 2047 s
  let s := cmpl_ri ecx 1075 s
  s

/-- State at exit 2 of `L_2TAG_PACKET_21_0_2`, from the state at the previous exit (or at entry). -/
def L_2TAG_PACKET_21_0_2_2 (cpu : Cpu) (s : Machine) : Machine :=
  s

/-- State at exit 3 of `L_2TAG_PACKET_21_0_2`, from the state at the previous exit (or at entry). -/
def L_2TAG_PACKET_21_0_2_3 (cpu : Cpu) (s : Machine) : Machine :=
  let s := cmpl_ri ecx 1074 s
  s

/-- State at exit 4 of `L_2TAG_PACKET_21_0_2`, from the state at the previous exit (or at entry). -/
def L_2TAG_PACKET_21_0_2_4 (cpu : Cpu) (s : Machine) : Machine :=
  let s := cmpl_ri ecx 1023 s
  s

/-- State at exit 5 of `L_2TAG_PACKET_21_0_2`, from the state at the previous exit (or at entry). -/
def L_2TAG_PACKET_21_0_2_5 (cpu : Cpu) (s : Machine) : Machine :=
  let s := movq_xm xmm1 16 s
  let s := movl_ri eax 17208 s
  let s := xorpd xmm3 xmm3 s
  let s := pinsrw xmm3 eax 3 s
  let s := movdqu_xx xmm4 xmm3 s
  let s := addsd xmm3 xmm1 s
  let s := subsd xmm4 xmm3 s
  let s := addsd xmm1 xmm4 s
  let s := pextrw eax xmm1 3 s
  let s := andl_ri eax 32752 s
  s

/-- State at exit 6 of `L_2TAG_PACKET_21_0_2`, from the state at the previous exit (or at entry). -/
def L_2TAG_PACKET_21_0_2_6 (cpu : Cpu) (s : Machine) : Machine :=
  let s := movdl_rx eax xmm3 s
  let s := andl_ri eax 1 s
  s

/-- State at exit 7 of `L_2TAG_PACKET_21_0_2`, from the state at the previous exit (or at entry). -/
def L_2TAG_PACKET_21_0_2_7 (cpu : Cpu) (s : Machine) : Machine :=
  s

/-- State at exit 1 of `L_2TAG_PACKET_20_0_2`, from the state at the previous exit (or at entry). -/
def L_2TAG_PACKET_20_0_2_1 (cpu : Cpu) (s : Machine) : Machine :=
  let s := bind Label.L_2TAG_PACKET_20_0_2 s
  let s := pextrw eax xmm0 3 s
  let s := testl_ri eax 32768 s
  s

/-- State at exit 2 of `L_2TAG_PACKET_20_0_2`, from the state at the previous exit (or at entry). -/
def L_2TAG_PACKET_20_0_2_2 (cpu : Cpu) (s : Machine) : Machine :=
  let s := testl_ri ecx 0x80000000 /- INT_MIN -/ s
  s

/-- State at exit 3 of `L_2TAG_PACKET_20_0_2`, from the state at the previous exit (or at entry). -/
def L_2TAG_PACKET_20_0_2_3 (cpu : Cpu) (s : Machine) : Machine :=
  s

/-- State at exit 1 of `L_2TAG_PACKET_15_0_2`, from the state at the previous exit (or at entry). -/
def L_2TAG_PACKET_15_0_2_1 (cpu : Cpu) (s : Machine) : Machine :=
  let s := bind Label.L_2TAG_PACKET_15_0_2 s
  let s := movdl_rx eax xmm1 s
  let s := movdqu_xx xmm2 xmm1 s
  let s := psrlq xmm1 32 s
  let s := movdl_rx edx xmm1 s
  let s := movl_rr ecx edx s
  let s := addl_rr edx edx s
  let s := orl_rr eax edx s
  s

/-- State at exit 2 of `L_2TAG_PACKET_15_0_2`, from the state at the previous exit (or at entry). -/
def L_2TAG_PACKET_15_0_2_2 (cpu : Cpu) (s : Machine) : Machine :=
  let s := pextrw eax xmm2 3 s
  let s := andl_ri eax 32752 s
  let s := cmpl_ri eax 32752 s
  s

/-- State at exit 3 of `L_2TAG_PACKET_15_0_2`, from the state at the previous exit (or at entry). -/
def L_2TAG_PACKET_15_0_2_3 (cpu : Cpu) (s : Machine) : Machine :=
  let s := movdl_rx eax xmm2 s
  let s := psrlq xmm2 20 s
  let s := movdl_rx edx xmm2 s
  let s := orl_rr eax edx s
  s

/-- State at exit 4 of `L_2TAG_PACKET_15_0_2`, from the state at the previous exit (or at entry). -/
def L_2TAG_PACKET_15_0_2_4 (cpu : Cpu) (s : Machine) : Machine :=
  s

/-- State at exit 1 of `L_2TAG_PACKET_16_0_2`, from the state at the previous exit (or at entry). -/
def L_2TAG_PACKET_16_0_2_1 (cpu : Cpu) (s : Machine) : Machine :=
  let s := bind Label.L_2TAG_PACKET_16_0_2 s
  let s := xorpd xmm0 xmm0 s
  let s := movl_ri eax 16368 s
  let s := pinsrw xmm0 eax 3 s
  let s := movl_mi 0 29 s
  s

/-- State at exit 1 of `L_2TAG_PACKET_6_0_2`, from the state at the previous exit (or at entry). -/
def L_2TAG_PACKET_6_0_2_1 (cpu : Cpu) (s : Machine) : Machine :=
  let s := bind Label.L_2TAG_PACKET_6_0_2 s
  let s := movq_xm xmm1 16 s
  let s := movq_xm xmm0 8 s
  let s := movdqu_xx xmm2 xmm0 s
  let s := movdl_rx eax xmm2 s
  let s := psrlq xmm2 20 s
  let s := movdl_rx edx xmm2 s
  let s := orl_rr eax edx s
  s

/-- State at exit 2 of `L_2TAG_PACKET_6_0_2`, from the state at the previous exit (or at entry). -/
def L_2TAG_PACKET_6_0_2_2 (cpu : Cpu) (s : Machine) : Machine :=
  let s := movdl_rx eax xmm1 s
  let s := psrlq xmm1 32 s
  let s := movdl_rx edx xmm1 s
  let s := movl_rr ecx edx s
  let s := addl_rr edx edx s
  let s := orl_rr eax edx s
  s

/-- State at exit 3 of `L_2TAG_PACKET_6_0_2`, from the state at the previous exit (or at entry). -/
def L_2TAG_PACKET_6_0_2_3 (cpu : Cpu) (s : Machine) : Machine :=
  let s := addsd xmm0 xmm0 s
  s

/-- State at exit 1 of `L_2TAG_PACKET_0_0_2`, from the state at the previous exit (or at entry). -/
def L_2TAG_PACKET_0_0_2_1 (cpu : Cpu) (s : Machine) : Machine :=
  let s := bind Label.L_2TAG_PACKET_0_0_2 s
  let s := addl_ri eax 16 s
  let s := movl_ri edx 32752 s
  let s := andl_rr edx eax s
  let s := cmpl_ri edx 32752 s
  s

/-- State at exit 2 of `L_2TAG_PACKET_0_0_2`, from the state at the previous exit (or at entry). -/
def L_2TAG_PACKET_0_0_2_2 (cpu : Cpu) (s : Machine) : Machine :=
  let s := testl_ri eax 32768 s
  s

/-- State at exit 3 of `L_2TAG_PACKET_0_0_2`, from the state at the previous exit (or at entry). -/
def L_2TAG_PACKET_0_0_2_3 (cpu : Cpu) (s : Machine) : Machine :=
  s

/-- State at exit 1 of `B1_2`, from the state at the previous exit (or at entry). -/
def B1_2_1 (cpu : Cpu) (s : Machine) : Machine :=
  let s := bind Label.B1_2 s
  let s := pextrw eax xmm0 3 s
  let s := xorpd xmm2 xmm2 s
  let s := mov64 tmp2 0x3ff0000000000000 s
  let s := movdq_xr xmm2 tmp2 s
  let s := movl_ri tmp1 1069088768 s
  let s := movdq_xr xmm7 tmp1 s
  let s := xorpd xmm1 xmm1 s
  let s := mov64 tmp3 0x77f0000000000000 s
  let s := movdq_xr xmm1 tmp3 s
  let s := movdqu_xx xmm3 xmm0 s
  let s := movl_ri edx 32752 s
  let s := andl_rr edx eax s
  let s := subl_ri edx 16368 s
  let s := movl_rr ecx edx s
  let s := sarl edx 31 s
  let s := addl_rr ecx edx s
  let s := xorl_rr ecx edx s
  let s := por xmm0 xmm2 s
  let s := movdqu_xe xmm6 Tbl.HIGHSIGMASK 0 s
  let s := psrlq xmm0 27 s
  let s := movq_xe xmm2 Tbl.LOG2_E 0 s
  let s := psrld xmm0 2 s
  let s := addl_ri ecx 16 s
  let s := bsrl ecx ecx s
  let s := rcpps cpu.rcp xmm0 xmm0 s
  let s := psllq xmm3 12 s
  let s := movl_ri tmp4 8192 s
  let s := movdq_xr xmm4 tmp4 s
  let s := psrlq xmm3 12 s
  let s := subl_ri eax 16 s
  let s := cmpl_ri eax 32736 s
  s

/-- State at exit 2 of `B1_2`, from the state at the previous exit (or at entry). -/
def B1_2_2 (cpu : Cpu) (s : Machine) : Machine :=
  let s := movl_ri tmp1 0 s
  s

/-- State at exit 1 of `start`, from the state at the previous exit (or at entry). -/
def start_1 (cpu : Cpu) (s : Machine) : Machine :=
  let s := bind Label.start s
  let s := subq_rsp 40 s
  let s := movsd_mx 8 xmm0 s
  let s := movsd_mx 16 xmm1 s
  s

/-- State at exit 1 of `entry`, from the state at the previous exit (or at entry). -/
def entry_1 (cpu : Cpu) (s : Machine) : Machine :=
  let s := bind Label.entry s
  s

end fast_pow

end MacroAssembler


/-! ## A sample processor

The kernels are verified for every `Cpu`; concrete runs use the processor below, whose
`rcpps` estimate is the correctly rounded quotient truncated to twelve significant bits. -/

/-- Binary32 division `a / b` for finite non-zero operands, rounded to nearest even. -/
def f32Div (a b : Nat) : Nat :=
  let s := (f32Sign a + f32Sign b) % 2
  let num := f32Sig a * 2 ^ 60
  let q := num / f32Sig b
  let sticky := if num % f32Sig b = 0 then 0 else 1
  roundPack32 s (2 * q + sticky) (f32E a + 939 - f32E b)

/-- A reciprocal estimate as `rcpps` may return it for one lane: signed infinity for zero and
subnormal operands, signed zero for infinite ones, and otherwise the quotient `1/x` with the
low eleven bits of the pattern cleared (relative error below `2^-12`). -/
def rcpSample (x : Nat) : Nat :=
  let sgn := f32Sign x * 2 ^ 31
  if f32Exp x = 0 then sgn + 0x7F800000
  else if f32Exp x = 255 then (if f32Man x = 0 then sgn else x ||| 2 ^ 22)
  else f32Div 0x3F800000 x / 2 ^ 11 * 2 ^ 11

/-- A processor with SSE3 and the estimate `rcpSample`. -/
def Cpu.sample : Cpu := { rcp := rcpSample, supports_sse3 := true }

/-- A processor without SSE3 (same estimate). -/
def Cpu.sampleSSE2 : Cpu := { rcp := rcpSample, supports_sse3 := false }

/-! ## Values of bit patterns

Comparisons of the value of a bit pattern with a decimal number are made in integers. -/

/-- Bit pattern of `|x|`: the sign bit cleared.  For patterns that are not NaNs, the order of
the magnitudes is the order of these patterns (`1.0` is `0x3FF0000000000000`). -/
def f64Abs (x : Nat) : Nat := x % 2 ^ 63

/-- The binary64 value `y` is a mathematical integer: zero, a finite value of at least `2^53`
in magnitude, or a value `sig * 2^(e - 1075)` with `1 ≤ |y| < 2^53` whose fraction bits are all
zero. -/
def f64IsInteger (y : Nat) : Bool :=
  f64IsZero y ∨ (1075 < f64Exp y ∧ f64Exp y < 2047) ∨
    (1023 ≤ f64Exp y ∧ f64Exp y ≤ 1075 ∧ f64Sig y % 2 ^ (1075 - f64Exp y) = 0)

/-- The binary64 value `y` is an odd integer: `1 ≤ |y| < 2^53`, no fraction bits, and the unit
bit set. -/
def f64IsOddInteger (y : Nat) : Bool :=
  1023 ≤ f64Exp y ∧ f64Exp y ≤ 1075 ∧ f64Sig y % 2 ^ (1075 - f64Exp y) = 0 ∧
    f64Sig y / 2 ^ (1075 - f64Exp y) % 2 = 1

/-- Magnitude of a finite binary64 value, scaled by `2^1075`: `|x| = f64Mag x / 2^1075`. -/
def f64Mag (x : Nat) : Nat := f64Sig x * 2 ^ f64E x

/-- The binary64 value `x` is finite. -/
def f64IsFinite (x : Nat) : Bool := f64Exp x < 2047

/-- The finite binary64 value `x` is less than the negative number `-num / den`. -/
def f64LtNegDec (x num den : Nat) : Bool := f64Sign x = 1 ∧ num * 2 ^ 1075 < f64Mag x * den

/-- A processor whose `rcpps` returns the pattern of `0.5` whatever the operand; it is used
only to exhibit that a result depends on the estimate. -/
def Cpu.coarse : Cpu := { rcp := fun _ => 0x3F000000, supports_sse3 := true }

/-- The loads of `_coeff_pow` in the 64-bit `fast_pow` that carry a comment listing constants:
source line of the load, its byte offset, and the four words written in the comment. -/
def coeffPowAnnotated : List (Nat × Nat × List Nat) :=
  [(2136, 0, [0x6dc96112, 0xbf836578, 0xee241472, 0xbf9b0301]),
   (2139, 16, [0x9f95985a, 0xbfb528db, 0xb3841d2a, 0xbfd619b6]),
   (2147, 32, [0x518775e3, 0x3f9004f2, 0xac8349bb, 0x3fa76c9b]),
   (2152, 48, [0x486ececc, 0x3fc4635e, 0x161bb241, 0xbf5dabe1]),
   (2931, 0, [0x6dc96112, 0xbf836578, 0xee241472, 0xbf9b0301]),
   (2937, 64, [0x486ececc, 0x3fc4635e, 0x161bb241, 0xbf5dabe1]),
   (2946, 80, [0x9f95985a, 0xbfb528db, 0xf8b5787d, 0x3ef2531e]),
   (2950, 32, [0x9f95985a, 0xbfb528db, 0xb3841d2a, 0xbfd619b6])]

/-- The four 32-bit words of `_coeff_pow` that a 16-byte load at byte offset `d` reads. -/
def coeffPowWords (d : Nat) : List Nat :=
  [load32 (Tbl.coeff_pow.addr + d), load32 (Tbl.coeff_pow.addr + d + 4),
   load32 (Tbl.coeff_pow.addr + d + 8), load32 (Tbl.coeff_pow.addr + d + 12)]

/-- First quadword of entry `j` of `_Tbl_addr`: the double `T_lo`. -/
def expTblLo (j : Nat) : Nat := load64 (Tbl.Tbl_addr.addr + 16 * j)

/-- Second quadword of entry `j` of `_Tbl_addr`: the mantissa bits of `T_hi`, so that
`T_hi = 1 + expTblHi j / 2^52`. -/
def expTblHi (j : Nat) : Nat := load64 (Tbl.Tbl_addr.addr + 16 * j + 8)

/-- The value `T_hi * (1 + T_lo)` of entry `j` of `_Tbl_addr`, scaled by `2^1127`
(`T_hi = (2^52 + expTblHi j) / 2^52` and `T_lo = ± f64Mag / 2^1075`). -/
def expTblNum (j : Nat) : Nat :=
  (2 ^ 52 + expTblHi j) *
    (if f64Sign (expTblLo j) = 0 then 2 ^ 1075 + f64Mag (expTblLo j)
     else 2 ^ 1075 - f64Mag (expTblLo j))

/-- First quadword of entry `j` of `_L_tbl`: the double `hi`. -/
def logTblHi (j : Nat) : Nat := load64 (Tbl.L_tbl.addr + 16 * j)

/-- Second quadword of entry `j` of `_L_tbl`: the double `lo`. -/
def logTblLo (j : Nat) : Nat := load64 (Tbl.L_tbl.addr + 16 * j + 8)

/-- The pair `(hi, lo)` satisfies `|lo| ≤ ulp(hi) / 2`; magnitudes are scaled by `2^1075`, so
that `ulp(hi)` is `2 ^ f64E hi`. -/
def dd_invariant (hi lo : Nat) : Bool := 2 * f64Mag lo ≤ 2 ^ f64E hi

/-! ## Integers of the range reduction of `fast_exp` -/

/-- Signed value of a 32-bit two's complement pattern. -/
def toInt32 (n : Nat) : Int :=
  if n % 2 ^ 32 < 2 ^ 31 then ((n % 2 ^ 32 : Nat) : Int) else ((n % 2 ^ 32 : Nat) : Int) - 2 ^ 32

namespace MacroAssembler
open XReg GReg

/-- The rounded integer `m` of `fast_exp` as `movdl(eax, xmm7)` reads it in `start_2`: the low
32 bits of the sum `x * (64 / ln 2) + shifter` formed by the first three instructions after
the branch to `L_2TAG_PACKET_0_0_2` (the argument is the state at that branch). -/
def fast_exp.roundedM (s : Machine) : Nat :=
  (movapd xmm7 xmm1 (addpd xmm1 xmm6 (mulpd xmm1 xmm0 s))).xr xmm7 % 2 ^ 32

end MacroAssembler

/-! ## The reciprocal estimate of `fast_log` -/

/-- Magnitude of a binary32 pattern, scaled by `2^150`. -/
def f32Mag (x : Nat) : Nat := f32Sig x * 2 ^ f32E x

/-- The binary32 pattern `f` is a positive finite number whose product with the number of
pattern `a` differs from `1` by at most `1.5 * 2^-12 = 3 * 2^-13`, that is `f` is `1 / a` with
relative error at most `1.5 * 2^-12` (the product of the two magnitudes is scaled by
`2^300`). -/
def rcpWithin (a f : Nat) : Bool :=
  f32Sign f = 0 ∧ f32Exp f < 255 ∧
    (2 ^ 13 - 3) * 2 ^ 300 ≤ 2 ^ 13 * (f32Mag a * f32Mag f) ∧
    2 ^ 13 * (f32Mag a * f32Mag f) ≤ (2 ^ 13 + 3) * 2 ^ 300

namespace MacroAssembler
open XReg GReg

/-- Lane 0 of the operand of `rcpps` in `fast_log`, for the double `x` in `xmm0`:
`por(xmm0, xmm2)` with the bits of `1.0`, `psrlq(xmm0, 27)`, `psrld(xmm0, 2)`. -/
def fast_log.rcpArg (x : Nat) : Nat := (x ||| 0x3ff0000000000000) / 2 ^ 27 % 2 ^ 32 / 2 ^ 2

/-- The byte offset into `_L_tbl` that `fast_log` derives from lane 0 `f` of the estimate:
`paddd(xmm0, xmm4)` with `32768`, `movdl(edx, xmm0)`, `andl(edx, 16711680)`,
`shrl(edx, 12)`. -/
def fast_log.tblOffset (f : Nat) : Nat := ((f + 32768) % 2 ^ 32 &&& 16711680) / 2 ^ 12

end MacroAssembler

namespace MacroAssembler

/-- Lane 0 of the operand of `rcpps` for the argument `x` of `fast_log`: a subnormal argument
is first multiplied by `2^128` (`pinsrw` of `18416` into word 3, `mulsd`) in
`L_2TAG_PACKET_3_0_2`. -/
def fast_log.rcpOperand (x : Nat) : Nat :=
  fast_log.rcpArg (if x < 2 ^ 52 then f64Mul x 0x47f0000000000000 else x)

end MacroAssembler

/-! ## The main path of `fast_pow` -/

/-- Unbiased binary exponent `floor(log2 |x|)` of a finite non-zero binary64 value (for a
subnormal value the position of the leading mantissa bit is counted). -/
def f64Ilogb (x : Nat) : Int :=
  if f64Exp x = 0 then (ilog2 (f64Man x) : Int) - 1074 else (f64Exp x : Int) - 1023

namespace MacroAssembler

/-- The run `r`, started in state `s`, enters `L_2TAG_PACKET_4_0_2` of `fast_pow` in a state
`t` that holds `y` in the stack slot of the exponent and the integer `k` in `eax`, without
having entered `L_2TAG_PACKET_4_0_2` or `L_2TAG_PACKET_5_0_2` before. -/
def fast_pow.ReachesMain (cpu : Cpu) (r s : Machine) (k : Int) (y : Nat) : Prop :=
  ∃ t p, r = fast_pow.L_2TAG_PACKET_4_0_2 cpu t ∧ t.trace = p ++ s.trace ∧
    Label.L_2TAG_PACKET_4_0_2 ∉ p ∧ Label.L_2TAG_PACKET_5_0_2 ∉ p ∧
    t.get (.m 16) = y ∧ toInt32 (t.get (.g .eax)) = k

/-- The run `r`, started in state `s`, never enters `L_2TAG_PACKET_4_0_2` of `fast_pow`. -/
def fast_pow.AvoidsMain (r s : Machine) : Prop :=
  ∃ l, r.trace = l ++ s.trace ∧ Label.L_2TAG_PACKET_4_0_2 ∉ l

end MacroAssembler

/-! ## Control-flow data

For each kernel, `rank` numbers the labels so that every jump and every fall-through goes to
a label of smaller rank, and `blockSize` is the number of assembler calls in the source
between `bind` of the label and the next `bind` (for `entry`, before the first `bind`), the
longer alternative of a test of `supports_sse3` being counted. -/

/-- The list `t` extends `t0` by labels of strictly increasing rank ending with `b`. -/
def Descends (rank : Label → Nat) (b : Label) (t t0 : List Label) : Prop :=
  ∃ l, t = l ++ b :: t0 ∧ List.Chain' (fun x y => rank x < rank y) (l ++ [b])

namespace MacroAssembler.fast_exp

/-- Topological numbering of the labels of `fast_exp`. -/
def rank : Label → Nat
  | .B1_5 => 0
  | .L_2TAG_PACKET_11_0_2 => 1
  | .L_2TAG_PACKET_12_0_2 => 2
  | .L_2TAG_PACKET_9_0_2 => 3
  | .B1_3 => 4
  | .L_2TAG_PACKET_6_0_2 => 5
  | .L_2TAG_PACKET_10_0_2 => 6
  | .L_2TAG_PACKET_7_0_2 => 7
  | .L_2TAG_PACKET_8_0_2 => 8
  | .L_2TAG_PACKET_0_0_2 => 9
  | .L_2TAG_PACKET_2_0_2 => 10
  | .L_2TAG_PACKET_3_0_2 => 11
  | .L_2TAG_PACKET_4_0_2 => 12
  | .L_2TAG_PACKET_5_0_2 => 13
  | .L_2TAG_PACKET_1_0_2 => 14
  | .start => 15
  | .entry => 16
  | _ => 17

/-- Number of assembler calls in each block of `fast_exp`. -/
def blockSize : Label → Nat
  | .B1_5 => 1
  | .L_2TAG_PACKET_11_0_2 => 3
  | .L_2TAG_PACKET_12_0_2 => 2
  | .L_2TAG_PACKET_9_0_2 => 10
  | .B1_3 => 1
  | .L_2TAG_PACKET_6_0_2 => 1
  | .L_2TAG_PACKET_10_0_2 => 4
  | .L_2TAG_PACKET_7_0_2 => 2
  | .L_2TAG_PACKET_8_0_2 => 7
  | .L_2TAG_PACKET_0_0_2 => 7
  | .L_2TAG_PACKET_2_0_2 => 5
  | .L_2TAG_PACKET_3_0_2 => 7
  | .L_2TAG_PACKET_4_0_2 => 3
  | .L_2TAG_PACKET_5_0_2 => 14
  | .L_2TAG_PACKET_1_0_2 => 34
  | .start => 60
  | .entry => 1
  | _ => 0

/-- Targets of the jumps and of the fall-through of each block of `fast_exp`. -/
def succ : Label → List Label
  | .B1_5 => []
  | .L_2TAG_PACKET_11_0_2 => [.B1_5]
  | .L_2TAG_PACKET_12_0_2 => [.B1_5]
  | .L_2TAG_PACKET_9_0_2 => [.L_2TAG_PACKET_11_0_2, .L_2TAG_PACKET_12_0_2, .B1_5]
  | .B1_3 => [.B1_5]
  | .L_2TAG_PACKET_6_0_2 => [.B1_3]
  | .L_2TAG_PACKET_10_0_2 => [.L_2TAG_PACKET_6_0_2]
  | .L_2TAG_PACKET_7_0_2 => [.L_2TAG_PACKET_6_0_2]
  | .L_2TAG_PACKET_8_0_2 => [.L_2TAG_PACKET_9_0_2, .L_2TAG_PACKET_10_0_2, .L_2TAG_PACKET_7_0_2]
  | .L_2TAG_PACKET_0_0_2 => [.L_2TAG_PACKET_8_0_2, .B1_5]
  | .L_2TAG_PACKET_2_0_2 => [.L_2TAG_PACKET_6_0_2]
  | .L_2TAG_PACKET_3_0_2 => [.L_2TAG_PACKET_7_0_2, .B1_5]
  | .L_2TAG_PACKET_4_0_2 => [.B1_5]
  | .L_2TAG_PACKET_5_0_2 => [.L_2TAG_PACKET_6_0_2]
  | .L_2TAG_PACKET_1_0_2 => [.L_2TAG_PACKET_2_0_2, .L_2TAG_PACKET_3_0_2, .L_2TAG_PACKET_4_0_2, .L_2TAG_PACKET_5_0_2, .B1_5]
  | .start => [.L_2TAG_PACKET_0_0_2, .L_2TAG_PACKET_1_0_2, .B1_5]
  | .entry => [.start]
  | _ => []

/-- The labels of `fast_exp`, in the order of `rank`. -/
def labels : List Label :=
  [.B1_5, .L_2TAG_PACKET_11_0_2, .L_2TAG_PACKET_12_0_2, .L_2TAG_PACKET_9_0_2, .B1_3,
   .L_2TAG_PACKET_6_0_2, .L_2TAG_PACKET_10_0_2, .L_2TAG_PACKET_7_0_2, .L_2TAG_PACKET_8_0_2,
   .L_2TAG_PACKET_0_0_2, .L_2TAG_PACKET_2_0_2, .L_2TAG_PACKET_3_0_2, .L_2TAG_PACKET_4_0_2,
   .L_2TAG_PACKET_5_0_2, .L_2TAG_PACKET_1_0_2, .start, .entry]

end MacroAssembler.fast_exp

namespace MacroAssembler.fast_log

/-- Topological numbering of the labels of `fast_log`. -/
def rank : Label → Nat
  | .B1_5 => 0
  | .B1_3 => 1
  | .L_2TAG_PACKET_8_0_2 => 2
  | .L_2TAG_PACKET_7_0_2 => 3
  | .L_2TAG_PACKET_6_0_2 => 4
  | .L_2TAG_PACKET_4_0_2 => 5
  | .L_2TAG_PACKET_5_0_2 => 6
  | .L_2TAG_PACKET_2_0_2 => 7
  | .L_2TAG_PACKET_1_0_2 => 8
  | .L_2TAG_PACKET_3_0_2 => 9
  | .L_2TAG_PACKET_0_0_2 => 10
  | .start => 11
  | .entry => 12
  | _ => 13

/-- Number of assembler calls in each block of `fast_log`. -/
def blockSize : Label → Nat
  | .B1_5 => 1
  | .B1_3 => 1
  | .L_2TAG_PACKET_8_0_2 => 1
  | .L_2TAG_PACKET_7_0_2 => 6
  | .L_2TAG_PACKET_6_0_2 => 7
  | .L_2TAG_PACKET_4_0_2 => 2
  | .L_2TAG_PACKET_5_0_2 => 4
  | .L_2TAG_PACKET_2_0_2 => 9
  | .L_2TAG_PACKET_1_0_2 => 48
  | .L_2TAG_PACKET_3_0_2 => 23
  | .L_2TAG_PACKET_0_0_2 => 7
  | .start => 24
  | .entry => 1
  | _ => 0

/-- Targets of the jumps and of the fall-through of each block of `fast_log`. -/
def succ : Label → List Label
  | .B1_5 => []
  | .B1_3 => [.B1_5]
  | .L_2TAG_PACKET_8_0_2 => [.B1_3]
  | .L_2TAG_PACKET_7_0_2 => [.L_2TAG_PACKET_8_0_2]
  | .L_2TAG_PACKET_6_0_2 => [.L_2TAG_PACKET_8_0_2]
  | .L_2TAG_PACKET_4_0_2 => [.B1_5]
  | .L_2TAG_PACKET_5_0_2 => [.L_2TAG_PACKET_4_0_2, .L_2TAG_PACKET_6_0_2]
  | .L_2TAG_PACKET_2_0_2 => [.L_2TAG_PACKET_5_0_2, .L_2TAG_PACKET_7_0_2, .L_2TAG_PACKET_6_0_2]
  | .L_2TAG_PACKET_1_0_2 => [.B1_5]
  | .L_2TAG_PACKET_3_0_2 => [.L_2TAG_PACKET_7_0_2, .L_2TAG_PACKET_1_0_2]
  | .L_2TAG_PACKET_0_0_2 => [.L_2TAG_PACKET_2_0_2, .L_2TAG_PACKET_3_0_2, .L_2TAG_PACKET_4_0_2]
  | .start => [.L_2TAG_PACKET_0_0_2, .L_2TAG_PACKET_1_0_2]
  | .entry => [.start]
  | _ => []

/-- The labels of `fast_log`, in the order of `rank`. -/
def labels : List Label :=
  [.B1_5, .B1_3, .L_2TAG_PACKET_8_0_2, .L_2TAG_PACKET_7_0_2, .L_2TAG_PACKET_6_0_2,
   .L_2TAG_PACKET_4_0_2, .L_2TAG_PACKET_5_0_2, .L_2TAG_PACKET_2_0_2, .L_2TAG_PACKET_1_0_2,
   .L_2TAG_PACKET_3_0_2, .L_2TAG_PACKET_0_0_2, .start, .entry]

end MacroAssembler.fast_log

namespace MacroAssembler.fast_pow

/-- Topological numbering of the labels of `fast_pow`. -/
def rank : Label → Nat
  | .B1_5 => 0
  | .L_2TAG_PACKET_56_0_2 => 1
  | .B1_3 => 2
  | .L_2TAG_PACKET_17_0_2 => 3
  | .L_2TAG_PACKET_44_0_2 => 4
  | .L_2TAG_PACKET_22_0_2 => 5
  | .L_2TAG_PACKET_41_0_2 => 6
  | .L_2TAG_PACKET_43_0_2 => 7
  | .L_2TAG_PACKET_42_0_2 => 8
  | .L_2TAG_PACKET_39_0_2 => 9
  | .L_2TAG_PACKET_40_0_2 => 10
  | .L_2TAG_PACKET_18_0_2 => 11
  | .L_2TAG_PACKET_9_0_2 => 12
  | .L_2TAG_PACKET_37_0_2 => 13
  | .L_2TAG_PACKET_48_0_2 => 14
  | .L_2TAG_PACKET_50_0_2 => 15
  | .L_2TAG_PACKET_49_0_2 => 16
  | .L_2TAG_PACKET_13_0_2 => 17
  | .L_2TAG_PACKET_14_0_2 => 18
  | .L_2TAG_PACKET_55_0_2 => 19
  | .L_2TAG_PACKET_54_0_2 => 20
  | .L_2TAG_PACKET_53_0_2 => 21
  | .L_2TAG_PACKET_45_0_2 => 22
  | .L_2TAG_PACKET_46_0_2 => 23
  | .L_2TAG_PACKET_47_0_2 => 24
  | .L_2TAG_PACKET_12_0_2 => 25
  | .L_2TAG_PACKET_38_0_2 => 26
  | .L_2TAG_PACKET_11_0_2 => 27
  | .L_2TAG_PACKET_5_0_2 => 28
  | .L_2TAG_PACKET_4_0_2 => 29
  | .L_2TAG_PACKET_8_0_2 => 30
  | .L_2TAG_PACKET_51_0_2 => 31
  | .L_2TAG_PACKET_52_0_2 => 32
  | .L_2TAG_PACKET_3_0_2 => 33
  | .L_2TAG_PACKET_2_0_2 => 34
  | .L_2TAG_PACKET_1_0_2 => 35
  | .L_2TAG_PACKET_35_0_2 => 36
  | .L_2TAG_PACKET_34_0_2 => 37
  | .L_2TAG_PACKET_10_0_2 => 38
  | .L_2TAG_PACKET_36_0_2 => 39
  | .L_2TAG_PACKET_33_0_2 => 40
  | .L_2TAG_PACKET_32_0_2 => 41
  | .L_2TAG_PACKET_31_0_2 => 42
  | .L_2TAG_PACKET_30_0_2 => 43
  | .L_2TAG_PACKET_29_0_2 => 44
  | .L_2TAG_PACKET_28_0_2 => 45
  | .L_2TAG_PACKET_7_0_2 => 46
  | .L_2TAG_PACKET_19_0_2 => 47
  | .L_2TAG_PACKET_24_0_2 => 48
  | .L_2TAG_PACKET_27_0_2 => 49
  | .L_2TAG_PACKET_25_0_2 => 50
  | .L_2TAG_PACKET_26_0_2 => 51
  | .L_2TAG_PACKET_23_0_2 => 52
  | .L_2TAG_PACKET_21_0_2 => 53
  | .L_2TAG_PACKET_20_0_2 => 54
  | .L_2TAG_PACKET_15_0_2 => 55
  | .L_2TAG_PACKET_16_0_2 => 56
  | .L_2TAG_PACKET_6_0_2 => 57
  | .L_2TAG_PACKET_0_0_2 => 58
  | .B1_2 => 59
  | .start => 60
  | .entry => 61

/-- Number of assembler calls in each block of `fast_pow`. -/
def blockSize : Label → Nat
  | .B1_5 => 1
  | .L_2TAG_PACKET_56_0_2 => 0
  | .B1_3 => 1
  | .L_2TAG_PACKET_17_0_2 => 1
  | .L_2TAG_PACKET_44_0_2 => 7
  | .L_2TAG_PACKET_22_0_2 => 2
  | .L_2TAG_PACKET_41_0_2 => 3
  | .L_2TAG_PACKET_43_0_2 => 4
  | .L_2TAG_PACKET_42_0_2 => 4
  | .L_2TAG_PACKET_39_0_2 => 5
  | .L_2TAG_PACKET_40_0_2 => 27
  | .L_2TAG_PACKET_18_0_2 => 3
  | .L_2TAG_PACKET_9_0_2 => 11
  | .L_2TAG_PACKET_37_0_2 => 4
  | .L_2TAG_PACKET_48_0_2 => 2
  | .L_2TAG_PACKET_50_0_2 => 1
  | .L_2TAG_PACKET_49_0_2 => 8
  | .L_2TAG_PACKET_13_0_2 => 14
  | .L_2TAG_PACKET_14_0_2 => 2
  | .L_2TAG_PACKET_55_0_2 => 3
  | .L_2TAG_PACKET_54_0_2 => 9
  | .L_2TAG_PACKET_53_0_2 => 10
  | .L_2TAG_PACKET_45_0_2 => 12
  | .L_2TAG_PACKET_46_0_2 => 8
  | .L_2TAG_PACKET_47_0_2 => 6
  | .L_2TAG_PACKET_12_0_2 => 13
  | .L_2TAG_PACKET_38_0_2 => 0
  | .L_2TAG_PACKET_11_0_2 => 21
  | .L_2TAG_PACKET_5_0_2 => 84
  | .L_2TAG_PACKET_4_0_2 => 94
  | .L_2TAG_PACKET_8_0_2 => 44
  | .L_2TAG_PACKET_51_0_2 => 6
  | .L_2TAG_PACKET_52_0_2 => 1
  | .L_2TAG_PACKET_3_0_2 => 6
  | .L_2TAG_PACKET_2_0_2 => 169
  | .L_2TAG_PACKET_1_0_2 => 14
  | .L_2TAG_PACKET_35_0_2 => 22
  | .L_2TAG_PACKET_34_0_2 => 7
  | .L_2TAG_PACKET_10_0_2 => 44
  | .L_2TAG_PACKET_36_0_2 => 22
  | .L_2TAG_PACKET_33_0_2 => 3
  | .L_2TAG_PACKET_32_0_2 => 8
  | .L_2TAG_PACKET_31_0_2 => 3
  | .L_2TAG_PACKET_30_0_2 => 9
  | .L_2TAG_PACKET_29_0_2 => 13
  | .L_2TAG_PACKET_28_0_2 => 8
  | .L_2TAG_PACKET_7_0_2 => 37
  | .L_2TAG_PACKET_19_0_2 => 4
  | .L_2TAG_PACKET_24_0_2 => 8
  | .L_2TAG_PACKET_27_0_2 => 4
  | .L_2TAG_PACKET_25_0_2 => 5
  | .L_2TAG_PACKET_26_0_2 => 5
  | .L_2TAG_PACKET_23_0_2 => 7
  | .L_2TAG_PACKET_21_0_2 => 23
  | .L_2TAG_PACKET_20_0_2 => 6
  | .L_2TAG_PACKET_15_0_2 => 17
  | .L_2TAG_PACKET_16_0_2 => 5
  | .L_2TAG_PACKET_6_0_2 => 17
  | .L_2TAG_PACKET_0_0_2 => 7
  | .B1_2 => 33
  | .start => 3
  | .entry => 1

/-- Targets of the jumps and of the fall-through of each block of `fast_pow`. -/
def succ : Label → List Label
  | .B1_5 => []
  | .L_2TAG_PACKET_56_0_2 => [.B1_5]
  | .B1_3 => [.L_2TAG_PACKET_56_0_2]
  | .L_2TAG_PACKET_17_0_2 => [.B1_3]
  | .L_2TAG_PACKET_44_0_2 => [.L_2TAG_PACKET_17_0_2]
  | .L_2TAG_PACKET_22_0_2 => [.B1_5]
  | .L_2TAG_PACKET_41_0_2 => [.L_2TAG_PACKET_22_0_2, .L_2TAG_PACKET_44_0_2]
  | .L_2TAG_PACKET_43_0_2 => [.L_2TAG_PACKET_44_0_2, .B1_5]
  | .L_2TAG_PACKET_42_0_2 => [.L_2TAG_PACKET_43_0_2, .L_2TAG_PACKET_41_0_2]
  | .L_2TAG_PACKET_39_0_2 => [.L_2TAG_PACKET_17_0_2]
  | .L_2TAG_PACKET_40_0_2 => [.L_2TAG_PACKET_39_0_2, .L_2TAG_PACKET_41_0_2, .L_2TAG_PACKET_42_0_2, .L_2TAG_PACKET_43_0_2]
  | .L_2TAG_PACKET_18_0_2 => [.B1_5]
  | .L_2TAG_PACKET_9_0_2 => [.L_2TAG_PACKET_40_0_2, .L_2TAG_PACKET_18_0_2]
  | .L_2TAG_PACKET_37_0_2 => [.B1_5]
  | .L_2TAG_PACKET_48_0_2 => [.L_2TAG_PACKET_17_0_2]
  | .L_2TAG_PACKET_50_0_2 => [.L_2TAG_PACKET_48_0_2]
  | .L_2TAG_PACKET_49_0_2 => [.L_2TAG_PACKET_50_0_2]
  | .L_2TAG_PACKET_13_0_2 => [.L_2TAG_PACKET_49_0_2, .L_2TAG_PACKET_50_0_2]
  | .L_2TAG_PACKET_14_0_2 => [.L_2TAG_PACKET_17_0_2]
  | .L_2TAG_PACKET_55_0_2 => [.B1_5]
  | .L_2TAG_PACKET_54_0_2 => [.L_2TAG_PACKET_55_0_2, .B1_5]
  | .L_2TAG_PACKET_53_0_2 => [.L_2TAG_PACKET_54_0_2, .B1_5]
  | .L_2TAG_PACKET_45_0_2 => [.L_2TAG_PACKET_53_0_2, .B1_5]
  | .L_2TAG_PACKET_46_0_2 => [.L_2TAG_PACKET_48_0_2]
  | .L_2TAG_PACKET_47_0_2 => [.L_2TAG_PACKET_14_0_2]
  | .L_2TAG_PACKET_12_0_2 => [.L_2TAG_PACKET_45_0_2, .L_2TAG_PACKET_46_0_2, .L_2TAG_PACKET_47_0_2]
  | .L_2TAG_PACKET_38_0_2 => [.L_2TAG_PACKET_37_0_2]
  | .L_2TAG_PACKET_11_0_2 => [.L_2TAG_PACKET_38_0_2, .B1_5]
  | .L_2TAG_PACKET_5_0_2 => [.L_2TAG_PACKET_11_0_2, .L_2TAG_PACKET_12_0_2, .L_2TAG_PACKET_13_0_2, .L_2TAG_PACKET_14_0_2, .B1_5]
  | .L_2TAG_PACKET_4_0_2 => [.L_2TAG_PACKET_5_0_2, .B1_5]
  | .L_2TAG_PACKET_8_0_2 => [.L_2TAG_PACKET_9_0_2, .L_2TAG_PACKET_4_0_2]
  | .L_2TAG_PACKET_51_0_2 => [.L_2TAG_PACKET_47_0_2, .L_2TAG_PACKET_46_0_2]
  | .L_2TAG_PACKET_52_0_2 => [.B1_5]
  | .L_2TAG_PACKET_3_0_2 => [.L_2TAG_PACKET_4_0_2]
  | .L_2TAG_PACKET_2_0_2 => [.L_2TAG_PACKET_3_0_2, .L_2TAG_PACKET_45_0_2, .L_2TAG_PACKET_51_0_2, .L_2TAG_PACKET_12_0_2, .L_2TAG_PACKET_13_0_2, .L_2TAG_PACKET_14_0_2, .L_2TAG_PACKET_52_0_2]
  | .L_2TAG_PACKET_1_0_2 => [.L_2TAG_PACKET_2_0_2, .L_2TAG_PACKET_3_0_2]
  | .L_2TAG_PACKET_35_0_2 => [.L_2TAG_PACKET_8_0_2, .L_2TAG_PACKET_1_0_2]
  | .L_2TAG_PACKET_34_0_2 => [.L_2TAG_PACKET_17_0_2]
  | .L_2TAG_PACKET_10_0_2 => [.L_2TAG_PACKET_9_0_2, .L_2TAG_PACKET_4_0_2]
  | .L_2TAG_PACKET_36_0_2 => [.L_2TAG_PACKET_10_0_2, .L_2TAG_PACKET_1_0_2]
  | .L_2TAG_PACKET_33_0_2 => [.L_2TAG_PACKET_35_0_2, .L_2TAG_PACKET_36_0_2]
  | .L_2TAG_PACKET_32_0_2 => [.L_2TAG_PACKET_33_0_2, .L_2TAG_PACKET_34_0_2, .L_2TAG_PACKET_35_0_2, .L_2TAG_PACKET_36_0_2]
  | .L_2TAG_PACKET_31_0_2 => [.B1_5]
  | .L_2TAG_PACKET_30_0_2 => [.L_2TAG_PACKET_31_0_2, .B1_5]
  | .L_2TAG_PACKET_29_0_2 => [.L_2TAG_PACKET_30_0_2, .B1_5]
  | .L_2TAG_PACKET_28_0_2 => [.L_2TAG_PACKET_29_0_2, .B1_5]
  | .L_2TAG_PACKET_7_0_2 => [.L_2TAG_PACKET_9_0_2, .L_2TAG_PACKET_37_0_2, .L_2TAG_PACKET_28_0_2, .L_2TAG_PACKET_35_0_2, .L_2TAG_PACKET_32_0_2, .L_2TAG_PACKET_34_0_2, .L_2TAG_PACKET_36_0_2]
  | .L_2TAG_PACKET_19_0_2 => [.B1_5]
  | .L_2TAG_PACKET_24_0_2 => [.L_2TAG_PACKET_22_0_2, .B1_5]
  | .L_2TAG_PACKET_27_0_2 => [.B1_5]
  | .L_2TAG_PACKET_25_0_2 => [.L_2TAG_PACKET_27_0_2, .B1_5]
  | .L_2TAG_PACKET_26_0_2 => [.L_2TAG_PACKET_24_0_2, .L_2TAG_PACKET_25_0_2]
  | .L_2TAG_PACKET_23_0_2 => [.L_2TAG_PACKET_24_0_2, .L_2TAG_PACKET_25_0_2]
  | .L_2TAG_PACKET_21_0_2 => [.L_2TAG_PACKET_24_0_2, .L_2TAG_PACKET_26_0_2, .L_2TAG_PACKET_23_0_2, .L_2TAG_PACKET_25_0_2]
  | .L_2TAG_PACKET_20_0_2 => [.L_2TAG_PACKET_21_0_2, .L_2TAG_PACKET_22_0_2, .B1_5]
  | .L_2TAG_PACKET_15_0_2 => [.L_2TAG_PACKET_19_0_2, .L_2TAG_PACKET_20_0_2, .L_2TAG_PACKET_18_0_2]
  | .L_2TAG_PACKET_16_0_2 => [.L_2TAG_PACKET_17_0_2]
  | .L_2TAG_PACKET_6_0_2 => [.L_2TAG_PACKET_15_0_2, .L_2TAG_PACKET_16_0_2, .B1_5]
  | .L_2TAG_PACKET_0_0_2 => [.L_2TAG_PACKET_6_0_2, .L_2TAG_PACKET_7_0_2, .L_2TAG_PACKET_8_0_2]
  | .B1_2 => [.L_2TAG_PACKET_0_0_2, .L_2TAG_PACKET_1_0_2]
  | .start => [.B1_2]
  | .entry => [.start]

/-- The labels of `fast_pow`, in the order of `rank`. -/
def labels : List Label :=
  [.B1_5, .L_2TAG_PACKET_56_0_2, .B1_3, .L_2TAG_PACKET_17_0_2, .L_2TAG_PACKET_44_0_2,
   .L_2TAG_PACKET_22_0_2, .L_2TAG_PACKET_41_0_2, .L_2TAG_PACKET_43_0_2, .L_2TAG_PACKET_42_0_2,
   .L_2TAG_PACKET_39_0_2, .L_2TAG_PACKET_40_0_2, .L_2TAG_PACKET_18_0_2, .L_2TAG_PACKET_9_0_2,
   .L_2TAG_PACKET_37_0_2, .L_2TAG_PACKET_48_0_2, .L_2TAG_PACKET_50_0_2, .L_2TAG_PACKET_49_0_2,
   .L_2TAG_PACKET_13_0_2, .L_2TAG_PACKET_14_0_2, .L_2TAG_PACKET_55_0_2, .L_2TAG_PACKET_54_0_2,
   .L_2TAG_PACKET_53_0_2, .L_2TAG_PACKET_45_0_2, .L_2TAG_PACKET_46_0_2, .L_2TAG_PACKET_47_0_2,
   .L_2TAG_PACKET_12_0_2, .L_2TAG_PACKET_38_0_2, .L_2TAG_PACKET_11_0_2, .L_2TAG_PACKET_5_0_2,
   .L_2TAG_PACKET_4_0_2, .L_2TAG_PACKET_8_0_2, .L_2TAG_PACKET_51_0_2, .L_2TAG_PACKET_52_0_2,
   .L_2TAG_PACKET_3_0_2, .L_2TAG_PACKET_2_0_2, .L_2TAG_PACKET_1_0_2, .L_2TAG_PACKET_35_0_2,
   .L_2TAG_PACKET_34_0_2, .L_2TAG_PACKET_10_0_2, .L_2TAG_PACKET_36_0_2, .L_2TAG_PACKET_33_0_2,
   .L_2TAG_PACKET_32_0_2, .L_2TAG_PACKET_31_0_2, .L_2TAG_PACKET_30_0_2, .L_2TAG_PACKET_29_0_2,
   .L_2TAG_PACKET_28_0_2, .L_2TAG_PACKET_7_0_2, .L_2TAG_PACKET_19_0_2, .L_2TAG_PACKET_24_0_2,
   .L_2TAG_PACKET_27_0_2, .L_2TAG_PACKET_25_0_2, .L_2TAG_PACKET_26_0_2, .L_2TAG_PACKET_23_0_2,
   .L_2TAG_PACKET_21_0_2, .L_2TAG_PACKET_20_0_2, .L_2TAG_PACKET_15_0_2, .L_2TAG_PACKET_16_0_2,
   .L_2TAG_PACKET_6_0_2, .L_2TAG_PACKET_0_0_2, .B1_2, .start, .entry]

end MacroAssembler.fast_pow

/-! ### Symbolic execution lemmas

Every instruction builds its result with the setters `setx`, `setg`, `setstk`, `setFlags` and
`enter`.  The lemmas below state, for each instruction and each observation of the result
(`get l` for a location `l`, or `trace`), the same observation of the defining expression;
together with the read-over-write lemmas for the setters they evaluate an observation of a
state reached through a sequence of instructions without expanding the whole state. -/

theorem lane_eq :
    (∀ v, lo64 v = v % 2 ^ 64) ∧ (∀ v, hi64 v = v / 2 ^ 64 % 2 ^ 64) ∧
    (∀ lo hi, mk128 lo hi = lo + 2 ^ 64 * hi) ∧ (∀ v i, dw v i = v / 2 ^ (32 * i) % 2 ^ 32) ∧
    (∀ d0 d1 d2 d3, mkdw d0 d1 d2 d3 = d0 + 2 ^ 32 * d1 + 2 ^ 64 * d2 + 2 ^ 96 * d3) ∧
    (∀ f a b, map2q f a b = mk128 (f (lo64 a) (lo64 b)) (f (hi64 a) (hi64 b))) ∧
    (∀ f a b, mapLow f a b = mk128 (f (lo64 a) (lo64 b)) (hi64 a)) :=
  by
  repeat' (first | rfl | intro _ | constructor)

namespace Machine

theorem get_setx (s : Machine) (d : XReg) (v : Nat) (l : Loc) :
    (s.setx d v).get l = if l = .x d then v else s.get l := by
  cases l <;> simp [get, setx, xr, gr, stk]
theorem get_setg (s : Machine) (d : GReg) (v : Nat) (l : Loc) :
    (s.setg d v).get l = if l = .g d then v else s.get l := by
  cases l <;> simp [get, setg, xr, gr, stk]
theorem get_setstk (s : Machine) (k v : Nat) (l : Loc) :
    (s.setstk k v).get l = if l = .m k then v else s.get l := by
  cases l <;> simp [get, setstk, xr, gr, stk]
theorem get_enter (s : Machine) (lb : Label) (l : Loc) : (s.enter lb).get l = s.get l := by
  cases l <;> rfl
theorem get_setFlags (s : Machine) (c z sg o : Bool) :
    (∀ r, (s.setFlags c z sg o).get (.x r) = s.get (.x r)) ∧
    (∀ r, (s.setFlags c z sg o).get (.g r) = s.get (.g r)) ∧
    (∀ k, (s.setFlags c z sg o).get (.m k) = s.get (.m k)) ∧
    ((s.setFlags c z sg o).get .cf = c.toNat) ∧ ((s.setFlags c z sg o).get .zf = z.toNat) ∧
    ((s.setFlags c z sg o).get .sf = sg.toNat) ∧ ((s.setFlags c z sg o).get .ovf = o.toNat) :=
  by
  repeat' (first | rfl | intro _ | constructor)
theorem trace_set (s : Machine) :
    (∀ d v, (s.setx d v).trace = s.trace) ∧ (∀ d v, (s.setg d v).trace = s.trace) ∧
    (∀ k v, (s.setstk k v).trace = s.trace) ∧
    (∀ c z sg o, (s.setFlags c z sg o).trace = s.trace) ∧
    (∀ lb, (s.enter lb).trace = lb :: s.trace) :=
  by
  repeat' (first | rfl | intro _ | constructor)
theorem get_ite (c : Prop) [Decidable c] (a b : Machine) (l : Loc) :
    (if c then a else b).get l = if c then a.get l else b.get l := by
  split <;> rfl
theorem trace_ite (c : Prop) [Decidable c] (a b : Machine) :
    (if c then a else b).trace = if c then a.trace else b.trace := by
  split <;> rfl
theorem io_eq_get (s : Machine) :
    (s.arg0 = s.get (.x .xmm0) % 2 ^ 64) ∧ (s.arg1 = s.get (.x .xmm1) % 2 ^ 64) ∧
    (s.result = s.get (.x .xmm0) % 2 ^ 64) := ⟨rfl, rfl, rfl⟩
theorem obs_eq_get (s : Machine) :
    (∀ r, s.xr r = s.get (.x r)) ∧ (∀ r, s.gr r = s.get (.g r)) ∧
    (∀ r, s.g32 r = s.get (.g r) % 2 ^ 32) ∧ (∀ k, s.stk k = s.get (.m k)) ∧
    (∀ k n, s.stkBytes k n = s.get (.m (k / 8 * 8)) / 2 ^ (8 * (k % 8)) % 2 ^ (8 * n)) ∧
    (s.cf = decide (s.get .cf = 1)) ∧ (s.zf = decide (s.get .zf = 1)) ∧
    (s.sf = decide (s.get .sf = 1)) ∧ (s.ovf = decide (s.get .ovf = 1)) := by
  refine ⟨fun _ => rfl, fun _ => rfl, fun _ => rfl, fun _ => rfl, fun _ _ => rfl, ?_, ?_, ?_, ?_⟩ <;>
    simp [get]

theorem flags_get :
    (∀ (s : Machine) (res : Nat) (loc : Loc), (flagsLogic s res).get loc = (s.setFlags false (decide (res = 0)) (decide (2 ^ 31 ≤ res)) false).get loc) ∧
    (∀ (s : Machine) (a b : Nat) (loc : Loc), (flagsSub s a b).get loc = (let res := (a + 2 ^ 32 - b) % 2 ^ 32; (s.setFlags (decide (a < b)) (decide (res = 0)) (decide (2 ^ 31 ≤ res)) ((decide (2 ^ 31 ≤ a) != decide (2 ^ 31 ≤ b)) && (decide (2 ^ 31 ≤ res) != decide (2 ^ 31 ≤ a)))).get loc)) ∧
    (∀ (s : Machine) (a b : Nat) (loc : Loc), (flagsAdd s a b).get loc = (let res := (a + b) % 2 ^ 32; (s.setFlags (decide (2 ^ 32 ≤ a + b)) (decide (res = 0)) (decide (2 ^ 31 ≤ res)) ((decide (2 ^ 31 ≤ a) == decide (2 ^ 31 ≤ b)) && (decide (2 ^ 31 ≤ res) != decide (2 ^ 31 ≤ a)))).get loc)) :=
  by
  repeat' (first | rfl | intro _ | constructor)

theorem flags_trace :
    (∀ (s : Machine) (res : Nat), (flagsLogic s res).trace = (s.setFlags false (decide (res = 0)) (decide (2 ^ 31 ≤ res)) false).trace) ∧
    (∀ (s : Machine) (a b : Nat), (flagsSub s a b).trace = (let res := (a + 2 ^ 32 - b) % 2 ^ 32; (s.setFlags (decide (a < b)) (decide (res = 0)) (decide (2 ^ 31 ≤ res)) ((decide (2 ^ 31 ≤ a) != decide (2 ^ 31 ≤ b)) && (decide (2 ^ 31 ≤ res) != decide (2 ^ 31 ≤ a)))).trace)) ∧
    (∀ (s : Machine) (a b : Nat), (flagsAdd s a b).trace = (let res := (a + b) % 2 ^ 32; (s.setFlags (decide (2 ^ 32 ≤ a + b)) (decide (res = 0)) (decide (2 ^ 31 ≤ res)) ((decide (2 ^ 31 ≤ a) == decide (2 ^ 31 ≤ b)) && (decide (2 ^ 31 ≤ res) != decide (2 ^ 31 ≤ a)))).trace)) :=
  by
  repeat' (first | rfl | intro _ | constructor)

end Machine

namespace MacroAssembler
open XReg GReg Machine

theorem sem_get_1 :
    (∀ (l : Label) (s : Machine) (loc : Loc), (bind l s).get loc = (s.enter l).get loc) ∧
    (∀ (n : Nat) (s : Machine) (loc : Loc), (subq_rsp n s).get loc = (s).get loc) ∧
    (∀ (n : Nat) (s : Machine) (loc : Loc), (addq_rsp n s).get loc = (s).get loc) ∧
    (∀ (r : GReg) (imm : Nat) (s : Machine) (loc : Loc), (movl_ri r imm s).get loc = (s.setg r (imm % 2 ^ 32)).get loc) ∧
    (∀ (d a : GReg) (s : Machine) (loc : Loc), (movl_rr d a s).get loc = (s.setg d (s.g32 a)).get loc) ∧
    (∀ (r : GReg) (imm : Nat) (s : Machine) (loc : Loc), (mov64 r imm s).get loc = (s.setg r (imm % 2 ^ 64)).get loc) ∧
    (∀ (k imm : Nat) (s : Machine) (loc : Loc), (movl_mi k imm s).get loc = (let q := s.stk (k / 8 * 8); let sh := 2 ^ (8 * (k % 8)); (s.setstk (k / 8 * 8) (q - (q / sh % 2 ^ 32) * sh + (imm % 2 ^ 32) * sh)).get loc)) ∧
    (∀ (r : GReg) (k : Nat) (s : Machine) (loc : Loc), (movl_rm r k s).get loc = (s.setg r (s.stkBytes k 4)).get loc) ∧
    (∀ (r : GReg) (k : Nat) (s : Machine) (loc : Loc), (movw_rm r k s).get loc = (s.setg r (s.gr r - s.gr r % 2 ^ 16 + s.stkBytes k 2)).get loc) ∧
    (∀ (r : GReg) (t : Tbl) (s : Machine) (loc : Loc), (lea r t s).get loc = (s.setg r t.addr).get loc) ∧
    (∀ (r : GReg) (a : XReg) (s : Machine) (loc : Loc), (movdl_rx r a s).get loc = (s.setg r (s.xr a % 2 ^ 32)).get loc) ∧
    (∀ (d : XReg) (r : GReg) (s : Machine) (loc : Loc), (movdl_xr d r s).get loc = (s.setx d (s.gr r % 2 ^ 32)).get loc) ∧
    (∀ (d : XReg) (r : GReg) (s : Machine) (loc : Loc), (movdq_xr d r s).get loc = (s.setx d (s.gr r % 2 ^ 64)).get loc) ∧
    (∀ (d a : XReg) (s : Machine) (loc : Loc), (movdqu_xx d a s).get loc = (s.setx d (s.xr a)).get loc) ∧
    (∀ (d a : XReg) (s : Machine) (loc : Loc), (movapd d a s).get loc = (s.setx d (s.xr a)).get loc) ∧
    (∀ (d : XReg) (t : Tbl) (off : Nat) (s : Machine) (loc : Loc), (movdqu_xe d t off s).get loc = (s.setx d (load128 (t.addr + off))).get loc) ∧
    (∀ (d : XReg) (base index : GReg) (scale disp : Nat) (s : Machine) (loc : Loc), (movdqu_xi d base index scale disp s).get loc = (s.setx d (load128 (ea s base index scale disp))).get loc) ∧
    (∀ (d : XReg) (k : Nat) (s : Machine) (loc : Loc), (movq_xm d k s).get loc = (s.setx d (s.stk k % 2 ^ 64)).get loc) ∧
    (∀ (d : XReg) (t : Tbl) (off : Nat) (s : Machine) (loc : Loc), (movq_xe d t off s).get loc = (s.setx d (load64 (t.addr + off))).get loc) ∧
    (∀ (d : XReg) (base index : GReg) (scale disp : Nat) (s : Machine) (loc : Loc), (movq_xi d base index scale disp s).get loc = (s.setx d (load64 (ea s base index scale disp))).get loc) ∧
    (∀ (d : XReg) (k : Nat) (s : Machine) (loc : Loc), (movsd_xm d k s).get loc = (s.setx d (s.stk k % 2 ^ 64)).get loc) ∧
    (∀ (d : XReg) (t : Tbl) (off : Nat) (s : Machine) (loc : Loc), (movsd_xe d t off s).get loc = (s.setx d (load64 (t.addr + off))).get loc) ∧
    (∀ (k : Nat) (a : XReg) (s : Machine) (loc : Loc), (movq_mx k a s).get loc = (s.setstk k (lo64 (s.xr a))).get loc) ∧
    (∀ (k : Nat) (a : XReg) (s : Machine) (loc : Loc), (movsd_mx k a s).get loc = (s.setstk k (lo64 (s.xr a))).get loc) :=
  by
  repeat' (first | rfl | intro _ | constructor)

theorem sem_trace_1 :
    (∀ (l : Label) (s : Machine), (bind l s).trace = (s.enter l).trace) ∧
    (∀ (n : Nat) (s : Machine), (subq_rsp n s).trace = (s).trace) ∧
    (∀ (n : Nat) (s : Machine), (addq_rsp n s).trace = (s).trace) ∧
    (∀ (r : GReg) (imm : Nat) (s : Machine), (movl_ri r imm s).trace = (s.setg r (imm % 2 ^ 32)).trace) ∧
    (∀ (d a : GReg) (s : Machine), (movl_rr d a s).trace = (s.setg d (s.g32 a)).trace) ∧
    (∀ (r : GReg) (imm : Nat) (s : Machine), (mov64 r imm s).trace = (s.setg r (imm % 2 ^ 64)).trace) ∧
    (∀ (k imm : Nat) (s : Machine), (movl_mi k imm s).trace = (let q := s.stk (k / 8 * 8); let sh := 2 ^ (8 * (k % 8)); (s.setstk (k / 8 * 8) (q - (q / sh % 2 ^ 32) * sh + (imm % 2 ^ 32) * sh)).trace)) ∧
    (∀ (r : GReg) (k : Nat) (s : Machine), (movl_rm r k s).trace = (s.setg r (s.stkBytes k 4)).trace) ∧
    (∀ (r : GReg) (k : Nat) (s : Machine), (movw_rm r k s).trace = (s.setg r (s.gr r - s.gr r % 2 ^ 16 + s.stkBytes k 2)).trace) ∧
    (∀ (r : GReg) (t : Tbl) (s : Machine), (lea r t s).trace = (s.setg r t.addr).trace) ∧
    (∀ (r : GReg) (a : XReg) (s : Machine), (movdl_rx r a s).trace = (s.setg r (s.xr a % 2 ^ 32)).trace) ∧
    (∀ (d : XReg) (r : GReg) (s : Machine), (movdl_xr d r s).trace = (s.setx d (s.gr r % 2 ^ 32)).trace) ∧
    (∀ (d : XReg) (r : GReg) (s : Machine), (movdq_xr d r s).trace = (s.setx d (s.gr r % 2 ^ 64)).trace) ∧
    (∀ (d a : XReg) (s : Machine), (movdqu_xx d a s).trace = (s.setx d (s.xr a)).trace) ∧
    (∀ (d a : XReg) (s : Machine), (movapd d a s).trace = (s.setx d (s.xr a)).trace) ∧
    (∀ (d : XReg) (t : Tbl) (off : Nat) (s : Machine), (movdqu_xe d t off s).trace = (s.setx d (load128 (t.addr + off))).trace) ∧
    (∀ (d : XReg) (base index : GReg) (scale disp : Nat) (s : Machine), (movdqu_xi d base index scale disp s).trace = (s.setx d (load128 (ea s base index scale disp))).trace) ∧
    (∀ (d : XReg) (k : Nat) (s : Machine), (movq_xm d k s).trace = (s.setx d (s.stk k % 2 ^ 64)).trace) ∧
    (∀ (d : XReg) (t : Tbl) (off : Nat) (s : Machine), (movq_xe d t off s).trace = (s.setx d (load64 (t.addr + off))).trace) ∧
    (∀ (d : XReg) (base index : GReg) (scale disp : Nat) (s : Machine), (movq_xi d base index scale disp s).trace = (s.setx d (load64 (ea s base index scale disp))).trace) ∧
    (∀ (d : XReg) (k : Nat) (s : Machine), (movsd_xm d k s).trace = (s.setx d (s.stk k % 2 ^ 64)).trace) ∧
    (∀ (d : XReg) (t : Tbl) (off : Nat) (s : Machine), (movsd_xe d t off s).trace = (s.setx d (load64 (t.addr + off))).trace) ∧
    (∀ (k : Nat) (a : XReg) (s : Machine), (movq_mx k a s).trace = (s.setstk k (lo64 (s.xr a))).trace) ∧
    (∀ (k : Nat) (a : XReg) (s : Machine), (movsd_mx k a s).trace = (s.setstk k (lo64 (s.xr a))).trace) :=
  by
  repeat' (first | rfl | intro _ | constructor)

theorem sem_get_2 :
    (∀ (r : GReg) (a : XReg) (i : Nat) (s : Machine) (loc : Loc), (pextrw r a i s).get loc = (s.setg r (s.xr a / 2 ^ (16 * i) % 2 ^ 16)).get loc) ∧
    (∀ (d : XReg) (r : GReg) (i : Nat) (s : Machine) (loc : Loc), (pinsrw d r i s).get loc = (let v := s.xr d; (s.setx d (v - (v / 2 ^ (16 * i) % 2 ^ 16) * 2 ^ (16 * i) + (s.gr r % 2 ^ 16) * 2 ^ (16 * i))).get loc)) ∧
    (∀ (d a : XReg) (imm : Nat) (s : Machine) (loc : Loc), (pshufd d a imm s).get loc = (let v := s.xr a; (s.setx d (mkdw (dw v (imm % 4)) (dw v (imm / 4 % 4)) (dw v (imm / 16 % 4)) (dw v (imm / 64 % 4)))).get loc)) ∧
    (∀ (d a : XReg) (s : Machine) (loc : Loc), (unpcklpd d a s).get loc = (s.setx d (mk128 (lo64 (s.xr d)) (lo64 (s.xr a)))).get loc) ∧
    (∀ (d a : XReg) (s : Machine) (loc : Loc), (unpckhpd d a s).get loc = (s.setx d (mk128 (hi64 (s.xr d)) (hi64 (s.xr a)))).get loc) ∧
    (∀ (d a : XReg) (s : Machine) (loc : Loc), (movddup d a s).get loc = (s.setx d (mk128 (lo64 (s.xr a)) (lo64 (s.xr a)))).get loc) ∧
    (∀ (d a : XReg) (s : Machine) (loc : Loc), (movlhps d a s).get loc = (s.setx d (mk128 (lo64 (s.xr d)) (lo64 (s.xr a)))).get loc) ∧
    (∀ (d a : XReg) (s : Machine) (loc : Loc), (xorpd d a s).get loc = (s.setx d (s.xr d ^^^ s.xr a)).get loc) ∧
    (∀ (d a : XReg) (s : Machine) (loc : Loc), (pxor d a s).get loc = (s.setx d (s.xr d ^^^ s.xr a)).get loc) ∧
    (∀ (d a : XReg) (s : Machine) (loc : Loc), (por d a s).get loc = (s.setx d (s.xr d ||| s.xr a)).get loc) ∧
    (∀ (d a : XReg) (s : Machine) (loc : Loc), (pand d a s).get loc = (s.setx d (s.xr d &&& s.xr a)).get loc) ∧
    (∀ (d : XReg) (n : Nat) (s : Machine) (loc : Loc), (psrlq d n s).get loc = (s.setx d (mk128 (lo64 (s.xr d) / 2 ^ n) (hi64 (s.xr d) / 2 ^ n))).get loc) ∧
    (∀ (d : XReg) (n : Nat) (s : Machine) (loc : Loc), (psllq d n s).get loc = (s.setx d (mk128 (lo64 (s.xr d) * 2 ^ n % 2 ^ 64) (hi64 (s.xr d) * 2 ^ n % 2 ^ 64))).get loc) ∧
    (∀ (d : XReg) (n : Nat) (s : Machine) (loc : Loc), (psrld d n s).get loc = (let v := s.xr d; (s.setx d (mkdw (dw v 0 / 2 ^ n) (dw v 1 / 2 ^ n) (dw v 2 / 2 ^ n) (dw v 3 / 2 ^ n))).get loc)) ∧
    (∀ (d a : XReg) (s : Machine) (loc : Loc), (paddd d a s).get loc = (let v := s.xr d; let w := s.xr a; (s.setx d (mkdw ((dw v 0 + dw w 0) % 2 ^ 32) ((dw v 1 + dw w 1) % 2 ^ 32) ((dw v 2 + dw w 2) % 2 ^ 32) ((dw v 3 + dw w 3) % 2 ^ 32))).get loc)) ∧
    (∀ (d a : XReg) (s : Machine) (loc : Loc), (paddq d a s).get loc = (s.setx d (map2q (fun p q => (p + q) % 2 ^ 64) (s.xr d) (s.xr a))).get loc) ∧
    (∀ (d a : XReg) (s : Machine) (loc : Loc), (psubd d a s).get loc = (let v := s.xr d; let w := s.xr a; (s.setx d (mkdw ((dw v 0 + 2 ^ 32 - dw w 0) % 2 ^ 32) ((dw v 1 + 2 ^ 32 - dw w 1) % 2 ^ 32) ((dw v 2 + 2 ^ 32 - dw w 2) % 2 ^ 32) ((dw v 3 + 2 ^ 32 - dw w 3) % 2 ^ 32))).get loc)) ∧
    (∀ (d : XReg) (n : Nat) (s : Machine) (loc : Loc), (psrad d n s).get loc = (let v := s.xr d; (s.setx d (mkdw (sar32 (dw v 0) n) (sar32 (dw v 1) n) (sar32 (dw v 2) n) (sar32 (dw v 3) n))).get loc)) ∧
    (∀ (d a : XReg) (s : Machine) (loc : Loc), (psllq_xx d a s).get loc = (let c := lo64 (s.xr a); (s.setx d (if 63 < c then 0 else mk128 (lo64 (s.xr d) * 2 ^ c % 2 ^ 64) (hi64 (s.xr d) * 2 ^ c % 2 ^ 64))).get loc)) ∧
    (∀ (rcp : Nat → Nat) (d a : XReg) (s : Machine) (loc : Loc), (rcpps rcp d a s).get loc = (let v := s.xr a; (s.setx d (mkdw (rcp (dw v 0) % 2 ^ 32) (rcp (dw v 1) % 2 ^ 32) (rcp (dw v 2) % 2 ^ 32) (rcp (dw v 3) % 2 ^ 32))).get loc)) ∧
    (∀ (d a : XReg) (s : Machine) (loc : Loc), (mulss d a s).get loc = (let v := s.xr d; (s.setx d (v - v % 2 ^ 32 + f32Mul (dw v 0) (dw (s.xr a) 0))).get loc)) ∧
    (∀ (d a : XReg) (s : Machine) (loc : Loc), (addsd d a s).get loc = (s.setx d (mapLow f64Add (s.xr d) (s.xr a))).get loc) ∧
    (∀ (d a : XReg) (s : Machine) (loc : Loc), (subsd d a s).get loc = (s.setx d (mapLow f64Sub (s.xr d) (s.xr a))).get loc) ∧
    (∀ (d a : XReg) (s : Machine) (loc : Loc), (mulsd d a s).get loc = (s.setx d (mapLow f64Mul (s.xr d) (s.xr a))).get loc) :=
  by
  repeat' (first | rfl | intro _ | constructor)

theorem sem_trace_2 :
    (∀ (r : GReg) (a : XReg) (i : Nat) (s : Machine), (pextrw r a i s).trace = (s.setg r (s.xr a / 2 ^ (16 * i) % 2 ^ 16)).trace) ∧
    (∀ (d : XReg) (r : GReg) (i : Nat) (s : Machine), (pinsrw d r i s).trace = (let v := s.xr d; (s.setx d (v - (v / 2 ^ (16 * i) % 2 ^ 16) * 2 ^ (16 * i) + (s.gr r % 2 ^ 16) * 2 ^ (16 * i))).trace)) ∧
    (∀ (d a : XReg) (imm : Nat) (s : Machine), (pshufd d a imm s).trace = (let v := s.xr a; (s.setx d (mkdw (dw v (imm % 4)) (dw v (imm / 4 % 4)) (dw v (imm / 16 % 4)) (dw v (imm / 64 % 4)))).trace)) ∧
    (∀ (d a : XReg) (s : Machine), (unpcklpd d a s).trace = (s.setx d (mk128 (lo64 (s.xr d)) (lo64 (s.xr a)))).trace) ∧
    (∀ (d a : XReg) (s : Machine), (unpckhpd d a s).trace = (s.setx d (mk128 (hi64 (s.xr d)) (hi64 (s.xr a)))).trace) ∧
    (∀ (d a : XReg) (s : Machine), (movddup d a s).trace = (s.setx d (mk128 (lo64 (s.xr a)) (lo64 (s.xr a)))).trace) ∧
    (∀ (d a : XReg) (s : Machine), (movlhps d a s).trace = (s.setx d (mk128 (lo64 (s.xr d)) (lo64 (s.xr a)))).trace) ∧
    (∀ (d a : XReg) (s : Machine), (xorpd d a s).trace = (s.setx d (s.xr d ^^^ s.xr a)).trace) ∧
    (∀ (d a : XReg) (s : Machine), (pxor d a s).trace = (s.setx d (s.xr d ^^^ s.xr a)).trace) ∧
    (∀ (d a : XReg) (s : Machine), (por d a s).trace = (s.setx d (s.xr d ||| s.xr a)).trace) ∧
    (∀ (d a : XReg) (s : Machine), (pand d a s).trace = (s.setx d (s.xr d &&& s.xr a)).trace) ∧
    (∀ (d : XReg) (n : Nat) (s : Machine), (psrlq d n s).trace = (s.setx d (mk128 (lo64 (s.xr d) / 2 ^ n) (hi64 (s.xr d) / 2 ^ n))).trace) ∧
    (∀ (d : XReg) (n : Nat) (s : Machine), (psllq d n s).trace = (s.setx d (mk128 (lo64 (s.xr d) * 2 ^ n % 2 ^ 64) (hi64 (s.xr d) * 2 ^ n % 2 ^ 64))).trace) ∧
    (∀ (d : XReg) (n : Nat) (s : Machine), (psrld d n s).trace = (let v := s.xr d; (s.setx d (mkdw (dw v 0 / 2 ^ n) (dw v 1 / 2 ^ n) (dw v 2 / 2 ^ n) (dw v 3 / 2 ^ n))).trace)) ∧
    (∀ (d a : XReg) (s : Machine), (paddd d a s).trace = (let v := s.xr d; let w := s.xr a; (s.setx d (mkdw ((dw v 0 + dw w 0) % 2 ^ 32) ((dw v 1 + dw w 1) % 2 ^ 32) ((dw v 2 + dw w 2) % 2 ^ 32) ((dw v 3 + dw w 3) % 2 ^ 32))).trace)) ∧
    (∀ (d a : XReg) (s : Machine), (paddq d a s).trace = (s.setx d (map2q (fun p q => (p + q) % 2 ^ 64) (s.xr d) (s.xr a))).trace) ∧
    (∀ (d a : XReg) (s : Machine), (psubd d a s).trace = (let v := s.xr d; let w := s.xr a; (s.setx d (mkdw ((dw v 0 + 2 ^ 32 - dw w 0) % 2 ^ 32) ((dw v 1 + 2 ^ 32 - dw w 1) % 2 ^ 32) ((dw v 2 + 2 ^ 32 - dw w 2) % 2 ^ 32) ((dw v 3 + 2 ^ 32 - dw w 3) % 2 ^ 32))).trace)) ∧
    (∀ (d : XReg) (n : Nat) (s : Machine), (psrad d n s).trace = (let v := s.xr d; (s.setx d (mkdw (sar32 (dw v 0) n) (sar32 (dw v 1) n) (sar32 (dw v 2) n) (sar32 (dw v 3) n))).trace)) ∧
    (∀ (d a : XReg) (s : Machine), (psllq_xx d a s).trace = (let c := lo64 (s.xr a); (s.setx d (if 63 < c then 0 else mk128 (lo64 (s.xr d) * 2 ^ c % 2 ^ 64) (hi64 (s.xr d) * 2 ^ c % 2 ^ 64))).trace)) ∧
    (∀ (rcp : Nat → Nat) (d a : XReg) (s : Machine), (rcpps rcp d a s).trace = (let v := s.xr a; (s.setx d (mkdw (rcp (dw v 0) % 2 ^ 32) (rcp (dw v 1) % 2 ^ 32) (rcp (dw v 2) % 2 ^ 32) (rcp (dw v 3) % 2 ^ 32))).trace)) ∧
    (∀ (d a : XReg) (s : Machine), (mulss d a s).trace = (let v := s.xr d; (s.setx d (v - v % 2 ^ 32 + f32Mul (dw v 0) (dw (s.xr a) 0))).trace)) ∧
    (∀ (d a : XReg) (s : Machine), (addsd d a s).trace = (s.setx d (mapLow f64Add (s.xr d) (s.xr a))).trace) ∧
    (∀ (d a : XReg) (s : Machine), (subsd d a s).trace = (s.setx d (mapLow f64Sub (s.xr d) (s.xr a))).trace) ∧
    (∀ (d a : XReg) (s : Machine), (mulsd d a s).trace = (s.setx d (mapLow f64Mul (s.xr d) (s.xr a))).trace) :=
  by
  repeat' (first | rfl | intro _ | constructor)

theorem sem_get_3 :
    (∀ (d a : XReg) (s : Machine) (loc : Loc), (divsd d a s).get loc = (s.setx d (mapLow f64Div (s.xr d) (s.xr a))).get loc) ∧
    (∀ (d : XReg) (t : Tbl) (off : Nat) (s : Machine) (loc : Loc), (mulsd_xe d t off s).get loc = (s.setx d (mapLow f64Mul (s.xr d) (load64 (t.addr + off)))).get loc) ∧
    (∀ (d : XReg) (t : Tbl) (off : Nat) (s : Machine) (loc : Loc), (addsd_xe d t off s).get loc = (s.setx d (mapLow f64Add (s.xr d) (load64 (t.addr + off)))).get loc) ∧
    (∀ (d a : XReg) (s : Machine) (loc : Loc), (addpd d a s).get loc = (s.setx d (map2q f64Add (s.xr d) (s.xr a))).get loc) ∧
    (∀ (d a : XReg) (s : Machine) (loc : Loc), (subpd d a s).get loc = (s.setx d (map2q f64Sub (s.xr d) (s.xr a))).get loc) ∧
    (∀ (d : XReg) (t : Tbl) (off : Nat) (s : Machine) (loc : Loc), (mulpd_xe d t off s).get loc = (s.setx d (map2q f64Mul (s.xr d) (load128 (t.addr + off)))).get loc) ∧
    (∀ (d a : XReg) (s : Machine) (loc : Loc), (mulpd d a s).get loc = (s.setx d (map2q f64Mul (s.xr d) (s.xr a))).get loc) ∧
    (∀ (d : XReg) (base index : GReg) (scale disp : Nat) (s : Machine) (loc : Loc), (addpd_xi d base index scale disp s).get loc = (s.setx d (map2q f64Add (s.xr d) (load128 (ea s base index scale disp)))).get loc) ∧
    (∀ (d : XReg) (r : GReg) (s : Machine) (loc : Loc), (cvtsi2sdl d r s).get loc = (s.setx d (mk128 (i32ToF64 (s.g32 r)) (hi64 (s.xr d)))).get loc) ∧
    (∀ (r : GReg) (imm : Nat) (s : Machine) (loc : Loc), (andl_ri r imm s).get loc = (let res := s.g32 r &&& (imm % 2 ^ 32); ((s.setg r res).flagsLogic res).get loc)) ∧
    (∀ (d a : GReg) (s : Machine) (loc : Loc), (andl_rr d a s).get loc = (let res := s.g32 d &&& s.g32 a; ((s.setg d res).flagsLogic res).get loc)) ∧
    (∀ (d a : GReg) (s : Machine) (loc : Loc), (orl_rr d a s).get loc = (let res := s.g32 d ||| s.g32 a; ((s.setg d res).flagsLogic res).get loc)) ∧
    (∀ (d a : GReg) (s : Machine) (loc : Loc), (xorl_rr d a s).get loc = (let res := s.g32 d ^^^ s.g32 a; ((s.setg d res).flagsLogic res).get loc)) ∧
    (∀ (r : GReg) (imm : Nat) (s : Machine) (loc : Loc), (testl_ri r imm s).get loc = (s.flagsLogic (s.g32 r &&& (imm % 2 ^ 32))).get loc) ∧
    (∀ (r : GReg) (imm : Nat) (s : Machine) (loc : Loc), (addl_ri r imm s).get loc = ((s.setg r ((s.g32 r + imm % 2 ^ 32) % 2 ^ 32)).flagsAdd (s.g32 r) (imm % 2 ^ 32)).get loc) ∧
    (∀ (d a : GReg) (s : Machine) (loc : Loc), (addl_rr d a s).get loc = ((s.setg d ((s.g32 d + s.g32 a) % 2 ^ 32)).flagsAdd (s.g32 d) (s.g32 a)).get loc) ∧
    (∀ (r : GReg) (imm : Nat) (s : Machine) (loc : Loc), (subl_ri r imm s).get loc = ((s.setg r ((s.g32 r + 2 ^ 32 - imm % 2 ^ 32) % 2 ^ 32)).flagsSub (s.g32 r) (imm % 2 ^ 32)).get loc) ∧
    (∀ (d a : GReg) (s : Machine) (loc : Loc), (subl_rr d a s).get loc = ((s.setg d ((s.g32 d + 2 ^ 32 - s.g32 a) % 2 ^ 32)).flagsSub (s.g32 d) (s.g32 a)).get loc) ∧
    (∀ (r : GReg) (imm : Nat) (s : Machine) (loc : Loc), (cmpl_ri r imm s).get loc = (s.flagsSub (s.g32 r) (imm % 2 ^ 32)).get loc) ∧
    (∀ (s s0 : Machine) (c res : Nat) (carry o : Bool) (loc : Loc), (flagsShift s s0 c res carry o).get loc = (s.setFlags (if c = 0 then s0.cf else carry) (if c = 0 then s0.zf else decide (res = 0)) (if c = 0 then s0.sf else decide (2 ^ 31 ≤ res)) (if c = 0 then s0.ovf else o)).get loc) ∧
    (∀ (r : GReg) (n : Nat) (s : Machine) (loc : Loc), (sarl r n s).get loc = (let a := s.g32 r; let c := n % 32; let res := if a < 2 ^ 31 then a / 2 ^ c else a / 2 ^ c + (2 ^ 32 - 2 ^ (32 - c)); (flagsShift (s.setg r res) s c res (decide (a / 2 ^ (c - 1) % 2 = 1)) false).get loc)) ∧
    (∀ (r : GReg) (n : Nat) (s : Machine) (loc : Loc), (shrl r n s).get loc = (let a := s.g32 r; let c := n % 32; let res := a / 2 ^ c; (flagsShift (s.setg r res) s c res (decide (a / 2 ^ (c - 1) % 2 = 1)) (decide (2 ^ 31 ≤ a))).get loc)) ∧
    (∀ (r : GReg) (n : Nat) (s : Machine) (loc : Loc), (shll_ri r n s).get loc = (let a := s.g32 r; let c := n % 32; let res := a * 2 ^ c % 2 ^ 32; (flagsShift (s.setg r res) s c res (decide (a * 2 ^ c / 2 ^ 32 % 2 = 1)) (decide (2 ^ 31 ≤ res) != decide (a * 2 ^ c / 2 ^ 32 % 2 = 1))).get loc)) ∧
    (∀ (r : GReg) (s : Machine) (loc : Loc), (shll_cl r s).get loc = (let a := s.g32 r; let c := s.gr ecx % 32; let res := a * 2 ^ c % 2 ^ 32; (flagsShift (s.setg r res) s c res (decide (a * 2 ^ c / 2 ^ 32 % 2 = 1)) (decide (2 ^ 31 ≤ res) != decide (a * 2 ^ c / 2 ^ 32 % 2 = 1))).get loc)) :=
  by
  repeat' (first | rfl | intro _ | constructor)

theorem sem_trace_3 :
    (∀ (d a : XReg) (s : Machine), (divsd d a s).trace = (s.setx d (mapLow f64Div (s.xr d) (s.xr a))).trace) ∧
    (∀ (d : XReg) (t : Tbl) (off : Nat) (s : Machine), (mulsd_xe d t off s).trace = (s.setx d (mapLow f64Mul (s.xr d) (load64 (t.addr + off)))).trace) ∧
    (∀ (d : XReg) (t : Tbl) (off : Nat) (s : Machine), (addsd_xe d t off s).trace = (s.setx d (mapLow f64Add (s.xr d) (load64 (t.addr + off)))).trace) ∧
    (∀ (d a : XReg) (s : Machine), (addpd d a s).trace = (s.setx d (map2q f64Add (s.xr d) (s.xr a))).trace) ∧
    (∀ (d a : XReg) (s : Machine), (subpd d a s).trace = (s.setx d (map2q f64Sub (s.xr d) (s.xr a))).trace) ∧
    (∀ (d : XReg) (t : Tbl) (off : Nat) (s : Machine), (mulpd_xe d t off s).trace = (s.setx d (map2q f64Mul (s.xr d) (load128 (t.addr + off)))).trace) ∧
    (∀ (d a : XReg) (s : Machine), (mulpd d a s).trace = (s.setx d (map2q f64Mul (s.xr d) (s.xr a))).trace) ∧
    (∀ (d : XReg) (base index : GReg) (scale disp : Nat) (s : Machine), (addpd_xi d base index scale disp s).trace = (s.setx d (map2q f64Add (s.xr d) (load128 (ea s base index scale disp)))).trace) ∧
    (∀ (d : XReg) (r : GReg) (s : Machine), (cvtsi2sdl d r s).trace = (s.setx d (mk128 (i32ToF64 (s.g32 r)) (hi64 (s.xr d)))).trace) ∧
    (∀ (r : GReg) (imm : Nat) (s : Machine), (andl_ri r imm s).trace = (let res := s.g32 r &&& (imm % 2 ^ 32); ((s.setg r res).flagsLogic res).trace)) ∧
    (∀ (d a : GReg) (s : Machine), (andl_rr d a s).trace = (let res := s.g32 d &&& s.g32 a; ((s.setg d res).flagsLogic res).trace)) ∧
    (∀ (d a : GReg) (s : Machine), (orl_rr d a s).trace = (let res := s.g32 d ||| s.g32 a; ((s.setg d res).flagsLogic res).trace)) ∧
    (∀ (d a : GReg) (s : Machine), (xorl_rr d a s).trace = (let res := s.g32 d ^^^ s.g32 a; ((s.setg d res).flagsLogic res).trace)) ∧
    (∀ (r : GReg) (imm : Nat) (s : Machine), (testl_ri r imm s).trace = (s.flagsLogic (s.g32 r &&& (imm % 2 ^ 32))).trace) ∧
    (∀ (r : GReg) (imm : Nat) (s : Machine), (addl_ri r imm s).trace = ((s.setg r ((s.g32 r + imm % 2 ^ 32) % 2 ^ 32)).flagsAdd (s.g32 r) (imm % 2 ^ 32)).trace) ∧
    (∀ (d a : GReg) (s : Machine), (addl_rr d a s).trace = ((s.setg d ((s.g32 d + s.g32 a) % 2 ^ 32)).flagsAdd (s.g32 d) (s.g32 a)).trace) ∧
    (∀ (r : GReg) (imm : Nat) (s : Machine), (subl_ri r imm s).trace = ((s.setg r ((s.g32 r + 2 ^ 32 - imm % 2 ^ 32) % 2 ^ 32)).flagsSub (s.g32 r) (imm % 2 ^ 32)).trace) ∧
    (∀ (d a : GReg) (s : Machine), (subl_rr d a s).trace = ((s.setg d ((s.g32 d + 2 ^ 32 - s.g32 a) % 2 ^ 32)).flagsSub (s.g32 d) (s.g32 a)).trace) ∧
    (∀ (r : GReg) (imm : Nat) (s : Machine), (cmpl_ri r imm s).trace = (s.flagsSub (s.g32 r) (imm % 2 ^ 32)).trace) ∧
    (∀ (s s0 : Machine) (c res : Nat) (carry o : Bool), (flagsShift s s0 c res carry o).trace = (s.setFlags (if c = 0 then s0.cf else carry) (if c = 0 then s0.zf else decide (res = 0)) (if c = 0 then s0.sf else decide (2 ^ 31 ≤ res)) (if c = 0 then s0.ovf else o)).trace) ∧
    (∀ (r : GReg) (n : Nat) (s : Machine), (sarl r n s).trace = (let a := s.g32 r; let c := n % 32; let res := if a < 2 ^ 31 then a / 2 ^ c else a / 2 ^ c + (2 ^ 32 - 2 ^ (32 - c)); (flagsShift (s.setg r res) s c res (decide (a / 2 ^ (c - 1) % 2 = 1)) false).trace)) ∧
    (∀ (r : GReg) (n : Nat) (s : Machine), (shrl r n s).trace = (let a := s.g32 r; let c := n % 32; let res := a / 2 ^ c; (flagsShift (s.setg r res) s c res (decide (a / 2 ^ (c - 1) % 2 = 1)) (decide (2 ^ 31 ≤ a))).trace)) ∧
    (∀ (r : GReg) (n : Nat) (s : Machine), (shll_ri r n s).trace = (let a := s.g32 r; let c := n % 32; let res := a * 2 ^ c % 2 ^ 32; (flagsShift (s.setg r res) s c res (decide (a * 2 ^ c / 2 ^ 32 % 2 = 1)) (decide (2 ^ 31 ≤ res) != decide (a * 2 ^ c / 2 ^ 32 % 2 = 1))).trace)) ∧
    (∀ (r : GReg) (s : Machine), (shll_cl r s).trace = (let a := s.g32 r; let c := s.gr ecx % 32; let res := a * 2 ^ c % 2 ^ 32; (flagsShift (s.setg r res) s c res (decide (a * 2 ^ c / 2 ^ 32 % 2 = 1)) (decide (2 ^ 31 ≤ res) != decide (a * 2 ^ c / 2 ^ 32 % 2 = 1))).trace)) :=
  by
  repeat' (first | rfl | intro _ | constructor)

theorem sem_get_4 :
    (∀ (r : GReg) (n : Nat) (s : Machine) (loc : Loc), (shlq r n s).get loc = (let a := s.gr r % 2 ^ 64; let c := n % 64; let res := a * 2 ^ c % 2 ^ 64; let carry := decide (a * 2 ^ c / 2 ^ 64 % 2 = 1); ((s.setg r res).setFlags (if c = 0 then s.cf else carry) (if c = 0 then s.zf else decide (res = 0)) (if c = 0 then s.sf else decide (2 ^ 63 ≤ res)) (if c = 0 then s.ovf else (decide (2 ^ 63 ≤ res) != carry))).get loc)) ∧
    (∀ (d a : GReg) (s : Machine) (loc : Loc), (bsrl d a s).get loc = (let v := s.g32 a; ((s.setg d (if v = 0 then s.gr d else ilog2 v)).setFlags s.cf (decide (v = 0)) s.sf s.ovf).get loc)) :=
  by
  repeat' (first | rfl | intro _ | constructor)

theorem sem_trace_4 :
    (∀ (r : GReg) (n : Nat) (s : Machine), (shlq r n s).trace = (let a := s.gr r % 2 ^ 64; let c := n % 64; let res := a * 2 ^ c % 2 ^ 64; let carry := decide (a * 2 ^ c / 2 ^ 64 % 2 = 1); ((s.setg r res).setFlags (if c = 0 then s.cf else carry) (if c = 0 then s.zf else decide (res = 0)) (if c = 0 then s.sf else decide (2 ^ 63 ≤ res)) (if c = 0 then s.ovf else (decide (2 ^ 63 ≤ res) != carry))).trace)) ∧
    (∀ (d a : GReg) (s : Machine), (bsrl d a s).trace = (let v := s.g32 a; ((s.setg d (if v = 0 then s.gr d else ilog2 v)).setFlags s.cf (decide (v = 0)) s.sf s.ovf).trace)) :=
  by
  repeat' (first | rfl | intro _ | constructor)

theorem cc_iff (s : Machine) :
    (cc_equal s = true ↔ s.get .zf = 1) ∧ (cc_notEqual s = true ↔ s.get .zf = 0) ∧
    (cc_above s = true ↔ s.get .cf = 0 ∧ s.get .zf = 0) ∧
    (cc_aboveEqual s = true ↔ s.get .cf = 0) ∧ (cc_below s = true ↔ s.get .cf = 1) ∧
    (cc_belowEqual s = true ↔ s.get .cf = 1 ∨ s.get .zf = 1) ∧
    (cc_less s = true ↔ ¬(s.get .sf = 1 ↔ s.get .ovf = 1)) ∧
    (cc_lessEqual s = true ↔ s.get .zf = 1 ∨ ¬(s.get .sf = 1 ↔ s.get .ovf = 1)) ∧
    (cc_greater s = true ↔ s.get .zf = 0 ∧ (s.get .sf = 1 ↔ s.get .ovf = 1)) ∧
    (cc_greaterEqual s = true ↔ (s.get .sf = 1 ↔ s.get .ovf = 1)) := by
  cases s
  rename_i x g c z sg o f t
  cases c <;> cases z <;> cases sg <;> cases o <;>
    simp [cc_equal, cc_notEqual, cc_above, cc_aboveEqual, cc_below, cc_belowEqual, cc_less,
      cc_lessEqual, cc_greater, cc_greaterEqual, Machine.get, Bool.toNat]

end MacroAssembler

namespace MacroAssembler

/-- The values read by the loads at constant table addresses. -/
theorem load_const :
    (load128 (Tbl.ALLONES.addr + 0) = 0xFFFFFFFFFFFFFFFFFFFFFFFFFFFFFFFF) ∧
    (load128 (Tbl.HIGHSIGMASK.addr + 0) = 0xFFFFF80000000000FFFFF80000000000) ∧
    (load128 (Tbl.bias.addr + 0) = 0xFFC0000000000000FFC0) ∧
    (load128 (Tbl.coeff.addr + 0) = 0xBFD00000000000003FC2492492492492) ∧
    (load128 (Tbl.coeff.addr + 16) = 0x3FD5555555555555BFC5555E3D6FB175) ∧
    (load128 (Tbl.coeff.addr + 32) = 0xBFE00000000000003FC999999999999A) ∧
    (load128 (Tbl.coeff_pow.addr + 0) = 0xBF9B0301EE241472BF8365786DC96112) ∧
    (load128 (Tbl.coeff_pow.addr + 16) = 0xBFD619B6B3841D2ABFB528DB9F95985A) ∧
    (load128 (Tbl.coeff_pow.addr + 32) = 0x3FA76C9BAC8349BB3F9004F2518775E3) ∧
    (load128 (Tbl.coeff_pow.addr + 48) = 0xBF5DABE1161BB2413FC4635E486ECECC) ∧
    (load128 (Tbl.coeff_pow.addr + 64) = 0x3EF2531EF8B5787DBFB528DB9F95985A) ∧
    (load128 (Tbl.coeff_pow.addr + 80) = 0xBDD61BB2412055CC3FC4635E486ECECB) ∧
    (load128 (Tbl.cv.addr + 0) = 0x40571547652B82FE40571547652B82FE) ∧
    (load128 (Tbl.cv.addr + 16) = 0x3F862E42FEFA00003F862E42FEFA0000) ∧
    (load128 (Tbl.cv.addr + 32) = 0x3D1CF79ABC9E3B3A3D1CF79ABC9E3B3A) ∧
    (load128 (Tbl.cv.addr + 48) = 0x3FDFFFFFFFFFFFFE3FDFFFFFFFFFFFFE) ∧
    (load128 (Tbl.cv.addr + 64) = 0x3FA55555555B9E253F56C15CE3289860) ∧
    (load128 (Tbl.cv.addr + 80) = 0x3FC5555555548BA13F811115C090CF0F) ∧
    (load128 (Tbl.e_coeff.addr + 0) = 0x3FAC6B08D704A0C03F55D87FE78A6731) ∧
    (load128 (Tbl.e_coeff.addr + 16) = 0x3FCEBFBDFF82C58F3F83B2AB6FBA4E77) ∧
    (load128 (Tbl.ebias.addr + 0) = 0x3FF00000000000003FF0000000000000) ∧
    (load128 (Tbl.mmask.addr + 0) = 0xFFFFFFC000000000FFFFFFC0) ∧
    (load128 (Tbl.shifter.addr + 0) = 0x43380000000000004338000000000000) ∧
    (load64 (Tbl.HALFMASK.addr + 0) = 0xFFFFFFFFF8000000) ∧
    (load64 (Tbl.HIGHMASK_LOG_X.addr + 0) = 0xFFFFFFFFF8000000) ∧
    (load64 (Tbl.HIGHMASK_Y.addr + 0) = 0xFFFFFFF800000000) ∧
    (load64 (Tbl.HIGHMASK_Y.addr + 8) = 0xFFFFFFFF00000000) ∧
    (load64 (Tbl.INF.addr + 0) = 0x7FF0000000000000) ∧
    (load64 (Tbl.LOG2_E.addr + 0) = 0x3FF7200000000000) ∧
    (load64 (Tbl.ONE_val.addr + 0) = 0x3FF0000000000000) ∧
    (load64 (Tbl.XMAX.addr + 0) = 0x7FEFFFFFFFFFFFFF) ∧
    (load64 (Tbl.XMIN.addr + 0) = 0x10000000000000) ∧
    (load64 (Tbl.ZERO.addr + 0) = 0x0) ∧
    (load64 (Tbl.coeff_h.addr + 0) = 0xBFD61A0000000000) ∧
    (load64 (Tbl.coeff_h.addr + 8) = 0xBF5DABE100000000) ∧
    (load64 (Tbl.e_coeff.addr + 32) = 0x3FE62E42FEFA39EF) ∧
    (load64 (Tbl.log2.addr + 0) = 0x3FA62E42FEFA3800) ∧
    (load64 (Tbl.log2.addr + 8) = 0x3CEEF35793C76730) := by
  repeat' (first | rfl | constructor)

end MacroAssembler

namespace MacroAssembler
open XReg GReg Machine

namespace fast_exp

theorem exp_B1_5_1_sem (cpu : Cpu) (s : Machine) :
    (∀ l, (B1_5_1 cpu s).get l = (addq_rsp 24 (bind Label.B1_5 s)).get l) ∧
    ((B1_5_1 cpu s).trace = (addq_rsp 24 (bind Label.B1_5 s)).trace) :=
  ⟨fun _ => rfl, rfl⟩

theorem exp_L_2TAG_PACKET_11_0_2_1_sem (cpu : Cpu) (s : Machine) :
    (∀ l, (L_2TAG_PACKET_11_0_2_1 cpu s).get l = (addsd xmm0 xmm0 (movsd_xm xmm0 8 (bind Label.L_2TAG_PACKET_11_0_2 s))).get l) ∧
    ((L_2TAG_PACKET_11_0_2_1 cpu s).trace = (addsd xmm0 xmm0 (movsd_xm xmm0 8 (bind Label.L_2TAG_PACKET_11_0_2 s))).trace) :=
  ⟨fun _ => rfl, rfl⟩

theorem exp_L_2TAG_PACKET_12_0_2_1_sem (cpu : Cpu) (s : Machine) :
    (∀ l, (L_2TAG_PACKET_12_0_2_1 cpu s).get l = (movsd_xe xmm0 Tbl.ZERO 0 (bind Label.L_2TAG_PACKET_12_0_2 s)).get l) ∧
    ((L_2TAG_PACKET_12_0_2_1 cpu s).trace = (movsd_xe xmm0 Tbl.ZERO 0 (bind Label.L_2TAG_PACKET_12_0_2 s)).trace) :=
  ⟨fun _ => rfl, rfl⟩

theorem exp_L_2TAG_PACKET_9_0_2_1_sem (cpu : Cpu) (s : Machine) :
    (∀ l, (L_2TAG_PACKET_9_0_2_1 cpu s).get l = (cmpl_ri eax 2146435072 (movl_rm edx 8 (bind Label.L_2TAG_PACKET_9_0_2 s))).get l) ∧
    ((L_2TAG_PACKET_9_0_2_1 cpu s).trace = (cmpl_ri eax 2146435072 (movl_rm edx 8 (bind Label.L_2TAG_PACKET_9_0_2 s))).trace) :=
  ⟨fun _ => rfl, rfl⟩

theorem exp_L_2TAG_PACKET_9_0_2_2_sem (cpu : Cpu) (s : Machine) :
    (∀ l, (L_2TAG_PACKET_9_0_2_2 cpu s).get l = (cmpl_ri edx 0 s).get l) ∧
    ((L_2TAG_PACKET_9_0_2_2 cpu s).trace = (cmpl_ri edx 0 s).trace) :=
  ⟨fun _ => rfl, rfl⟩

theorem exp_L_2TAG_PACKET_9_0_2_3_sem (cpu : Cpu) (s : Machine) :
    (∀ l, (L_2TAG_PACKET_9_0_2_3 cpu s).get l = (cmpl_ri eax 2146435072 (movl_rm eax 12 s)).get l) ∧
    ((L_2TAG_PACKET_9_0_2_3 cpu s).trace = (cmpl_ri eax 2146435072 (movl_rm eax 12 s)).trace) :=
  ⟨fun _ => rfl, rfl⟩

theorem exp_L_2TAG_PACKET_9_0_2_4_sem (cpu : Cpu) (s : Machine) :
    (∀ l, (L_2TAG_PACKET_9_0_2_4 cpu s).get l = (movsd_xe xmm0 Tbl.INF 0 s).get l) ∧
    ((L_2TAG_PACKET_9_0_2_4 cpu s).trace = (movsd_xe xmm0 Tbl.INF 0 s).trace) :=
  ⟨fun _ => rfl, rfl⟩

theorem exp_B1_3_1_sem (cpu : Cpu) (s : Machine) :
    (∀ l, (B1_3_1 cpu s).get l = (movq_xm xmm0 16 (bind Label.B1_3 s)).get l) ∧
    ((B1_3_1 cpu s).trace = (movq_xm xmm0 16 (bind Label.B1_3 s)).trace) :=
  ⟨fun _ => rfl, rfl⟩

theorem exp_L_2TAG_PACKET_6_0_2_1_sem (cpu : Cpu) (s : Machine) :
    (∀ l, (L_2TAG_PACKET_6_0_2_1 cpu s).get l = (movq_mx 16 xmm0 (bind Label.L_2TAG_PACKET_6_0_2 s)).get l) ∧
    ((L_2TAG_PACKET_6_0_2_1 cpu s).trace = (movq_mx 16 xmm0 (bind Label.L_2TAG_PACKET_6_0_2 s)).trace) :=
  ⟨fun _ => rfl, rfl⟩

theorem exp_L_2TAG_PACKET_10_0_2_1_sem (cpu : Cpu) (s : Machine) :
    (∀ l, (L_2TAG_PACKET_10_0_2_1 cpu s).get l = (movl_mi 0 15 (mulsd xmm0 xmm0 (movsd_xe xmm0 Tbl.XMIN 0 (bind Label.L_2TAG_PACKET_10_0_2 s)))).get l) ∧
    ((L_2TAG_PACKET_10_0_2_1 cpu s).trace = (movl_mi 0 15 (mulsd xmm0 xmm0 (movsd_xe xmm0 Tbl.XMIN 0 (bind Label.L_2TAG_PACKET_10_0_2 s)))).trace) :=
  ⟨fun _ => rfl, rfl⟩

theorem exp_L_2TAG_PACKET_7_0_2_1_sem (cpu : Cpu) (s : Machine) :
    (∀ l, (L_2TAG_PACKET_7_0_2_1 cpu s).get l = (movl_mi 0 14 (bind Label.L_2TAG_PACKET_7_0_2 s)).get l) ∧
    ((L_2TAG_PACKET_7_0_2_1 cpu s).trace = (movl_mi 0 14 (bind Label.L_2TAG_PACKET_7_0_2 s)).trace) :=
  ⟨fun _ => rfl, rfl⟩

theorem exp_L_2TAG_PACKET_8_0_2_1_sem (cpu : Cpu) (s : Machine) :
    (∀ l, (L_2TAG_PACKET_8_0_2_1 cpu s).get l = (cmpl_ri eax 2146435072 (bind Label.L_2TAG_PACKET_8_0_2 s)).get l) ∧
    ((L_2TAG_PACKET_8_0_2_1 cpu s).trace = (cmpl_ri eax 2146435072 (bind Label.L_2TAG_PACKET_8_0_2 s)).trace) :=
  ⟨fun _ => rfl, rfl⟩

theorem exp_L_2TAG_PACKET_8_0_2_2_sem (cpu : Cpu) (s : Machine) :
    (∀ l, (L_2TAG_PACKET_8_0_2_2 cpu s).get l = (cmpl_ri eax 0x80000000 (movl_rm eax 12 s)).get l) ∧
    ((L_2TAG_PACKET_8_0_2_2 cpu s).trace = (cmpl_ri eax 0x80000000 (movl_rm eax 12 s)).trace) :=
  ⟨fun _ => rfl, rfl⟩

theorem exp_L_2TAG_PACKET_8_0_2_3_sem (cpu : Cpu) (s : Machine) :
    (∀ l, (L_2TAG_PACKET_8_0_2_3 cpu s).get l = (mulsd xmm0 xmm0 (movsd_xe xmm0 Tbl.XMAX 0 s)).get l) ∧
    ((L_2TAG_PACKET_8_0_2_3 cpu s).trace = (mulsd xmm0 xmm0 (movsd_xe xmm0 Tbl.XMAX 0 s)).trace) :=
  ⟨fun _ => rfl, rfl⟩

theorem exp_L_2TAG_PACKET_0_0_2_1_sem (cpu : Cpu) (s : Machine) :
    (∀ l, (L_2TAG_PACKET_0_0_2_1 cpu s).get l = (cmpl_ri eax 1083179008 (andl_ri eax 2147483647 (movl_rm eax 12 (bind Label.L_2TAG_PACKET_0_0_2 s)))).get l) ∧
    ((L_2TAG_PACKET_0_0_2_1 cpu s).trace = (cmpl_ri eax 1083179008 (andl_ri eax 2147483647 (movl_rm eax 12 (bind Label.L_2TAG_PACKET_0_0_2 s)))).trace) :=
  ⟨fun _ => rfl, rfl⟩

theorem exp_L_2TAG_PACKET_0_0_2_2_sem (cpu : Cpu) (s : Machine) :
    (∀ l, (L_2TAG_PACKET_0_0_2_2 cpu s).get l = (addsd_xe xmm0 Tbl.ONE_val 0 (movsd_mx 8 xmm0 s)).get l) ∧
    ((L_2TAG_PACKET_0_0_2_2 cpu s).trace = (addsd_xe xmm0 Tbl.ONE_val 0 (movsd_mx 8 xmm0 s)).trace) :=
  ⟨fun _ => rfl, rfl⟩

theorem exp_L_2TAG_PACKET_2_0_2_1_sem (cpu : Cpu) (s : Machine) :
    (∀ l, (L_2TAG_PACKET_2_0_2_1 cpu s).get l = (movl_mi 0 15 (mulsd xmm0 xmm3 (addpd xmm0 xmm2 (paddd xmm3 xmm6 (bind Label.L_2TAG_PACKET_2_0_2 s))))).get l) ∧
    ((L_2TAG_PACKET_2_0_2_1 cpu s).trace = (movl_mi 0 15 (mulsd xmm0 xmm3 (addpd xmm0 xmm2 (paddd xmm3 xmm6 (bind Label.L_2TAG_PACKET_2_0_2 s))))).trace) :=
  ⟨fun _ => rfl, rfl⟩

theorem exp_L_2TAG_PACKET_3_0_2_1_sem (cpu : Cpu) (s : Machine) :
    (∀ l, (L_2TAG_PACKET_3_0_2_1 cpu s).get l = (cmpl_ri ecx 32752 (andl_ri ecx 32752 (pextrw ecx xmm0 3 (mulsd xmm0 xmm3 (addsd xmm0 xmm4 (bind Label.L_2TAG_PACKET_3_0_2 s)))))).get l) ∧
    ((L_2TAG_PACKET_3_0_2_1 cpu s).trace = (cmpl_ri ecx 32752 (andl_ri ecx 32752 (pextrw ecx xmm0 3 (mulsd xmm0 xmm3 (addsd xmm0 xmm4 (bind Label.L_2TAG_PACKET_3_0_2 s)))))).trace) :=
  ⟨fun _ => rfl, rfl⟩

theorem exp_L_2TAG_PACKET_3_0_2_2_sem (cpu : Cpu) (s : Machine) :
    (∀ l, (L_2TAG_PACKET_3_0_2_2 cpu s).get l = s.get l) ∧
    ((L_2TAG_PACKET_3_0_2_2 cpu s).trace = s.trace) :=
  ⟨fun _ => rfl, rfl⟩

theorem exp_L_2TAG_PACKET_4_0_2_1_sem (cpu : Cpu) (s : Machine) :
    (∀ l, (L_2TAG_PACKET_4_0_2_1 cpu s).get l = (mulsd xmm0 xmm3 (addsd xmm0 xmm4 (bind Label.L_2TAG_PACKET_4_0_2 s))).get l) ∧
    ((L_2TAG_PACKET_4_0_2_1 cpu s).trace = (mulsd xmm0 xmm3 (addsd xmm0 xmm4 (bind Label.L_2TAG_PACKET_4_0_2 s))).trace) :=
  ⟨fun _ => rfl, rfl⟩

theorem exp_L_2TAG_PACKET_5_0_2_1_sem (cpu : Cpu) (s : Machine) :
    (∀ l, (L_2TAG_PACKET_5_0_2_1 cpu s).get l = (movl_mi 0 15 (paddq xmm0 xmm4 (paddq xmm0 xmm6 (psrlq xmm6 63 (pxor xmm0 xmm6 (psrlq xmm0 1 (psllq xmm0 1 (pshufd xmm6 xmm6 85 (psrad xmm6 31 (pxor xmm6 xmm4 (movdqu_xx xmm0 xmm6 (mulsd xmm4 xmm3 (mulsd xmm6 xmm3 (bind Label.L_2TAG_PACKET_5_0_2 s)))))))))))))).get l) ∧
    ((L_2TAG_PACKET_5_0_2_1 cpu s).trace = (movl_mi 0 15 (paddq xmm0 xmm4 (paddq xmm0 xmm6 (psrlq xmm6 63 (pxor xmm0 xmm6 (psrlq xmm0 1 (psllq xmm0 1 (pshufd xmm6 xmm6 85 (psrad xmm6 31 (pxor xmm6 xmm4 (movdqu_xx xmm0 xmm6 (mulsd xmm4 xmm3 (mulsd xmm6 xmm3 (bind Label.L_2TAG_PACKET_5_0_2 s)))))))))))))).trace) :=
  ⟨fun _ => rfl, rfl⟩

theorem exp_L_2TAG_PACKET_1_0_2_1_sem (cpu : Cpu) (s : Machine) :
    (∀ l, (L_2TAG_PACKET_1_0_2_1 cpu s).get l = (cmpl_ri edx 52 (mulsd xmm0 xmm2 (psubd xmm2 xmm3 (psllq xmm3 4 (movdqu_xe xmm6 Tbl.ebias 0 (pinsrw xmm3 eax 3 (sarl eax 1 (movl_rr ecx eax (psllq_xx xmm4 xmm5 (movdl_xr xmm5 edx (subl_rr edx eax (movl_ri edx 0xFFFFFC02 (movdqu_xe xmm4 Tbl.ALLONES 0 (xorpd xmm3 xmm3 (bind Label.L_2TAG_PACKET_1_0_2 s))))))))))))))).get l) ∧
    ((L_2TAG_PACKET_1_0_2_1 cpu s).trace = (cmpl_ri edx 52 (mulsd xmm0 xmm2 (psubd xmm2 xmm3 (psllq xmm3 4 (movdqu_xe xmm6 Tbl.ebias 0 (pinsrw xmm3 eax 3 (sarl eax 1 (movl_rr ecx eax (psllq_xx xmm4 xmm5 (movdl_xr xmm5 edx (subl_rr edx eax (movl_ri edx 0xFFFFFC02 (movdqu_xe xmm4 Tbl.ALLONES 0 (xorpd xmm3 xmm3 (bind Label.L_2TAG_PACKET_1_0_2 s))))))))))))))).trace) :=
  ⟨fun _ => rfl, rfl⟩

theorem exp_L_2TAG_PACKET_1_0_2_2_sem (cpu : Cpu) (s : Machine) :
    (∀ l, (L_2TAG_PACKET_1_0_2_2 cpu s).get l = (cmpl_ri ecx 1023 (addsd xmm0 xmm2 (subsd xmm2 xmm4 (paddd xmm3 xmm6 (pand xmm4 xmm2 s))))).get l) ∧
    ((L_2TAG_PACKET_1_0_2_2 cpu s).trace = (cmpl_ri ecx 1023 (addsd xmm0 xmm2 (subsd xmm2 xmm4 (paddd xmm3 xmm6 (pand xmm4 xmm2 s))))).trace) :=
  ⟨fun _ => rfl, rfl⟩

theorem exp_L_2TAG_PACKET_1_0_2_3_sem (cpu : Cpu) (s : Machine) :
    (∀ l, (L_2TAG_PACKET_1_0_2_3 cpu s).get l = (cmpl_ri edx 0 (orl_rr edx ecx (andl_ri ecx 32768 (pextrw ecx xmm0 3 s)))).get l) ∧
    ((L_2TAG_PACKET_1_0_2_3 cpu s).trace = (cmpl_ri edx 0 (orl_rr edx ecx (andl_ri ecx 32768 (pextrw ecx xmm0 3 s)))).trace) :=
  ⟨fun _ => rfl, rfl⟩

theorem exp_L_2TAG_PACKET_1_0_2_4_sem (cpu : Cpu) (s : Machine) :
    (∀ l, (L_2TAG_PACKET_1_0_2_4 cpu s).get l = (cmpl_ri ecx 0 (andl_ri ecx 32752 (pextrw ecx xmm0 3 (mulsd xmm0 xmm3 (addsd xmm0 xmm4 (movapd xmm6 xmm0 s)))))).get l) ∧
    ((L_2TAG_PACKET_1_0_2_4 cpu s).trace = (cmpl_ri ecx 0 (andl_ri ecx 32752 (pextrw ecx xmm0 3 (mulsd xmm0 xmm3 (addsd xmm0 xmm4 (movapd xmm6 xmm0 s)))))).trace) :=
  ⟨fun _ => rfl, rfl⟩

theorem exp_L_2TAG_PACKET_1_0_2_5_sem (cpu : Cpu) (s : Machine) :
    (∀ l, (L_2TAG_PACKET_1_0_2_5 cpu s).get l = s.get l) ∧
    ((L_2TAG_PACKET_1_0_2_5 cpu s).trace = s.trace) :=
  ⟨fun _ => rfl, rfl⟩

theorem exp_start_1_sem (cpu : Cpu) (s : Machine) :
    (∀ l, (start_1 cpu s).get l = (cmpl_ri edx 0x80000000 (orl_rr edx eax (subl_ri eax 15504 (subl_rr edx eax (movl_ri edx 16527 (andl_ri eax 32767 (pextrw eax xmm0 3 (movdqu_xe xmm3 Tbl.cv 32 (movdqu_xe xmm2 Tbl.cv 16 (movdqu_xe xmm6 Tbl.shifter 0 (movdqu_xe xmm1 Tbl.cv 0 (unpcklpd xmm0 xmm0 (movsd_mx 8 xmm0 (subq_rsp 24 (bind Label.start s))))))))))))))).get l) ∧
    ((start_1 cpu s).trace = (cmpl_ri edx 0x80000000 (orl_rr edx eax (subl_ri eax 15504 (subl_rr edx eax (movl_ri edx 16527 (andl_ri eax 32767 (pextrw eax xmm0 3 (movdqu_xe xmm3 Tbl.cv 32 (movdqu_xe xmm2 Tbl.cv 16 (movdqu_xe xmm6 Tbl.shifter 0 (movdqu_xe xmm1 Tbl.cv 0 (unpcklpd xmm0 xmm0 (movsd_mx 8 xmm0 (subq_rsp 24 (bind Label.start s))))))))))))))).trace) :=
  ⟨fun _ => rfl, rfl⟩

theorem exp_start_2_sem (cpu : Cpu) (s : Machine) :
    (∀ l, (start_2 cpu s).get l = (cmpl_ri edx 1916 (addl_ri edx 894 (addsd xmm0 xmm6 (addsd xmm0 xmm1 (unpckhpd xmm0 xmm0 (por xmm2 xmm7 (addsd xmm1 xmm0 (mulpd xmm0 xmm5 (unpckhpd xmm2 xmm2 (addsd xmm1 xmm2 (mulpd_xe xmm6 Tbl.cv 48 (mulsd xmm0 xmm6 (addpd xmm5 xmm4 (mulpd xmm0 xmm6 (mulpd xmm6 xmm6 (movapd xmm1 xmm0 (movapd xmm6 xmm0 (mulpd xmm4 xmm0 (movdqu_xi xmm2 ecx tmp4 1 0 (lea tmp4 Tbl.Tbl_addr (subpd xmm0 xmm3 (psllq xmm7 46 (paddq xmm7 xmm6 (movdqu_xe xmm6 Tbl.bias 0 (pand xmm7 xmm6 (movdqu_xe xmm6 Tbl.mmask 0 (movl_rr edx eax (sarl eax 6 (shll_ri ecx 4 (andl_ri ecx 63 (movl_rr ecx eax (movdl_rx eax xmm7 (subpd xmm0 xmm2 (movdqu_xe xmm5 Tbl.cv 80 (mulpd xmm3 xmm1 (movdqu_xe xmm4 Tbl.cv 64 (mulpd xmm2 xmm1 (subpd xmm1 xmm6 (movapd xmm7 xmm1 (addpd xmm1 xmm6 (mulpd xmm1 xmm0 s))))))))))))))))))))))))))))))))))))))))).get l) ∧
    ((start_2 cpu s).trace = (cmpl_ri edx 1916 (addl_ri edx 894 (addsd xmm0 xmm6 (addsd xmm0 xmm1 (unpckhpd xmm0 xmm0 (por xmm2 xmm7 (addsd xmm1 xmm0 (mulpd xmm0 xmm5 (unpckhpd xmm2 xmm2 (addsd xmm1 xmm2 (mulpd_xe xmm6 Tbl.cv 48 (mulsd xmm0 xmm6 (addpd xmm5 xmm4 (mulpd xmm0 xmm6 (mulpd xmm6 xmm6 (movapd xmm1 xmm0 (movapd xmm6 xmm0 (mulpd xmm4 xmm0 (movdqu_xi xmm2 ecx tmp4 1 0 (lea tmp4 Tbl.Tbl_addr (subpd xmm0 xmm3 (psllq xmm7 46 (paddq xmm7 xmm6 (movdqu_xe xmm6 Tbl.bias 0 (pand xmm7 xmm6 (movdqu_xe xmm6 Tbl.mmask 0 (movl_rr edx eax (sarl eax 6 (shll_ri ecx 4 (andl_ri ecx 63 (movl_rr ecx eax (movdl_rx eax xmm7 (subpd xmm0 xmm2 (movdqu_xe xmm5 Tbl.cv 80 (mulpd xmm3 xmm1 (movdqu_xe xmm4 Tbl.cv 64 (mulpd xmm2 xmm1 (subpd xmm1 xmm6 (movapd xmm7 xmm1 (addpd xmm1 xmm6 (mulpd xmm1 xmm0 s))))))))))))))))))))))))))))))))))))))))).trace) :=
  ⟨fun _ => rfl, rfl⟩

theorem exp_start_3_sem (cpu : Cpu) (s : Machine) :
    (∀ l, (start_3 cpu s).get l = (addsd xmm0 xmm2 (mulsd xmm0 xmm2 s)).get l) ∧
    ((start_3 cpu s).trace = (addsd xmm0 xmm2 (mulsd xmm0 xmm2 s)).trace) :=
  ⟨fun _ => rfl, rfl⟩

theorem exp_entry_1_sem (cpu : Cpu) (s : Machine) :
    (∀ l, (entry_1 cpu s).get l = (bind Label.entry s).get l) ∧
    ((entry_1 cpu s).trace = (bind Label.entry s).trace) :=
  ⟨fun _ => rfl, rfl⟩

end fast_exp

end MacroAssembler

namespace MacroAssembler
open XReg GReg Machine

namespace fast_log

theorem log_B1_5_1_sem (cpu : Cpu) (s : Machine) :
    (∀ l, (B1_5_1 cpu s).get l = (addq_rsp 24 (bind Label.B1_5 s)).get l) ∧
    ((B1_5_1 cpu s).trace = (addq_rsp 24 (bind Label.B1_5 s)).trace) :=
  ⟨fun _ => rfl, rfl⟩

theorem log_B1_3_1_sem (cpu : Cpu) (s : Machine) :
    (∀ l, (B1_3_1 cpu s).get l = (movq_xm xmm0 8 (bind Label.B1_3 s)).get l) ∧
    ((B1_3_1 cpu s).trace = (movq_xm xmm0 8 (bind Label.B1_3 s)).trace) :=
  ⟨fun _ => rfl, rfl⟩

theorem log_L_2TAG_PACKET_8_0_2_1_sem (cpu : Cpu) (s : Machine) :
    (∀ l, (L_2TAG_PACKET_8_0_2_1 cpu s).get l = (movq_mx 8 xmm0 (bind Label.L_2TAG_PACKET_8_0_2 s)).get l) ∧
    ((L_2TAG_PACKET_8_0_2_1 cpu s).trace = (movq_mx 8 xmm0 (bind Label.L_2TAG_PACKET_8_0_2 s)).trace) :=
  ⟨fun _ => rfl, rfl⟩

theorem log_L_2TAG_PACKET_7_0_2_1_sem (cpu : Cpu) (s : Machine) :
    (∀ l, (L_2TAG_PACKET_7_0_2_1 cpu s).get l = (movl_mi 16 2 (divsd xmm0 xmm1 (pinsrw xmm0 eax 3 (movl_ri eax 49136 (xorpd xmm0 xmm0 (xorpd xmm1 xmm1 (bind Label.L_2TAG_PACKET_7_0_2 s))))))).get l) ∧
    ((L_2TAG_PACKET_7_0_2_1 cpu s).trace = (movl_mi 16 2 (divsd xmm0 xmm1 (pinsrw xmm0 eax 3 (movl_ri eax 49136 (xorpd xmm0 xmm0 (xorpd xmm1 xmm1 (bind Label.L_2TAG_PACKET_7_0_2 s))))))).trace) :=
  ⟨fun _ => rfl, rfl⟩

theorem log_L_2TAG_PACKET_6_0_2_1_sem (cpu : Cpu) (s : Machine) :
    (∀ l, (L_2TAG_PACKET_6_0_2_1 cpu s).get l = (movl_mi 16 3 (mulsd xmm0 xmm1 (pinsrw xmm1 eax 3 (movl_ri eax 32752 (xorpd xmm0 xmm0 (xorpd xmm1 xmm1 (bind Label.L_2TAG_PACKET_6_0_2 s))))))).get l) ∧
    ((L_2TAG_PACKET_6_0_2_1 cpu s).trace = (movl_mi 16 3 (mulsd xmm0 xmm1 (pinsrw xmm1 eax 3 (movl_ri eax 32752 (xorpd xmm0 xmm0 (xorpd xmm1 xmm1 (bind Label.L_2TAG_PACKET_6_0_2 s))))))).trace) :=
  ⟨fun _ => rfl, rfl⟩

theorem log_L_2TAG_PACKET_4_0_2_1_sem (cpu : Cpu) (s : Machine) :
    (∀ l, (L_2TAG_PACKET_4_0_2_1 cpu s).get l = (addsd xmm0 xmm0 (bind Label.L_2TAG_PACKET_4_0_2 s)).get l) ∧
    ((L_2TAG_PACKET_4_0_2_1 cpu s).trace = (addsd xmm0 xmm0 (bind Label.L_2TAG_PACKET_4_0_2 s)).trace) :=
  ⟨fun _ => rfl, rfl⟩

theorem log_L_2TAG_PACKET_5_0_2_1_sem (cpu : Cpu) (s : Machine) :
    (∀ l, (L_2TAG_PACKET_5_0_2_1 cpu s).get l = (bind Label.L_2TAG_PACKET_5_0_2 s).get l) ∧
    ((L_2TAG_PACKET_5_0_2_1 cpu s).trace = (bind Label.L_2TAG_PACKET_5_0_2 s).trace) :=
  ⟨fun _ => rfl, rfl⟩

theorem log_L_2TAG_PACKET_5_0_2_2_sem (cpu : Cpu) (s : Machine) :
    (∀ l, (L_2TAG_PACKET_5_0_2_2 cpu s).get l = (cmpl_ri edx 0 s).get l) ∧
    ((L_2TAG_PACKET_5_0_2_2 cpu s).trace = (cmpl_ri edx 0 s).trace) :=
  ⟨fun _ => rfl, rfl⟩

theorem log_L_2TAG_PACKET_5_0_2_3_sem (cpu : Cpu) (s : Machine) :
    (∀ l, (L_2TAG_PACKET_5_0_2_3 cpu s).get l = s.get l) ∧
    ((L_2TAG_PACKET_5_0_2_3 cpu s).trace = s.trace) :=
  ⟨fun _ => rfl, rfl⟩

theorem log_L_2TAG_PACKET_2_0_2_1_sem (cpu : Cpu) (s : Machine) :
    (∀ l, (L_2TAG_PACKET_2_0_2_1 cpu s).get l = (cmpl_ri ecx 0xFFE00000 (addl_rr ecx ecx (movdl_rx ecx xmm1 (psrlq xmm1 32 (movdl_rx edx xmm1 (bind Label.L_2TAG_PACKET_2_0_2 s)))))).get l) ∧
    ((L_2TAG_PACKET_2_0_2_1 cpu s).trace = (cmpl_ri ecx 0xFFE00000 (addl_rr ecx ecx (movdl_rx ecx xmm1 (psrlq xmm1 32 (movdl_rx edx xmm1 (bind Label.L_2TAG_PACKET_2_0_2 s)))))).trace) :=
  ⟨fun _ => rfl, rfl⟩

theorem log_L_2TAG_PACKET_2_0_2_2_sem (cpu : Cpu) (s : Machine) :
    (∀ l, (L_2TAG_PACKET_2_0_2_2 cpu s).get l = (cmpl_ri edx 0 (orl_rr edx ecx s)).get l) ∧
    ((L_2TAG_PACKET_2_0_2_2 cpu s).trace = (cmpl_ri edx 0 (orl_rr edx ecx s)).trace) :=
  ⟨fun _ => rfl, rfl⟩

theorem log_L_2TAG_PACKET_2_0_2_3_sem (cpu : Cpu) (s : Machine) :
    (∀ l, (L_2TAG_PACKET_2_0_2_3 cpu s).get l = s.get l) ∧
    ((L_2TAG_PACKET_2_0_2_3 cpu s).trace = s.trace) :=
  ⟨fun _ => rfl, rfl⟩

theorem log_L_2TAG_PACKET_1_0_2_1_sem (cpu : Cpu) (s : Machine) :
    (∀ l, (L_2TAG_PACKET_1_0_2_1 cpu s).get l = (addsd xmm0 xmm1 (addsd xmm1 xmm5 (pshufd xmm5 xmm4 238 (addsd xmm1 xmm4 (mulpd xmm4 xmm5 (addsd xmm1 xmm7 (addpd xmm4 xmm3 (addsd xmm7 xmm2 (mulsd xmm5 xmm5 (addsd xmm1 xmm6 (pshufd xmm2 xmm0 238 (mulsd xmm4 xmm1 (subsd xmm6 xmm0 (mulpd xmm3 xmm5 (addpd xmm4 xmm2 (addsd xmm0 xmm1 (if cpu.supports_sse3 then (movddup xmm6 xmm0 (mulpd xmm5 xmm5 (mulpd xmm4 xmm5 (addsd xmm0 xmm6 (mulsd xmm3 xmm1 (mulsd_xe xmm7 Tbl.log2 8 (if cpu.supports_sse3 then (movddup xmm5 xmm1 (mulsd xmm6 xmm7 (movdqu_xe xmm2 Tbl.coeff 32 (addsd xmm1 xmm5 (movdqu_xe xmm4 Tbl.coeff 16 (movdqu_xi xmm0 tmp2 edx 1 0 (shrl edx 12 (andl_ri edx 16711680 (subsd xmm5 xmm2 (movdqu_xe xmm3 Tbl.coeff 0 (movq_xe xmm6 Tbl.log2 0 (mulsd xmm1 xmm0 (cvtsi2sdl xmm7 eax (subl_rr eax ecx (andl_ri eax 32752 (mulpd xmm5 xmm0 (subsd xmm1 xmm5 (pand xmm0 xmm6 (pand xmm5 xmm1 (psllq xmm0 29 (movdl_rx edx xmm0 (por xmm1 xmm3 (paddd xmm0 xmm4 (bind Label.L_2TAG_PACKET_1_0_2 s)))))))))))))))))))))))) else (movlhps xmm5 xmm5 (movdqu_xx xmm5 xmm1 (mulsd xmm6 xmm7 (movdqu_xe xmm2 Tbl.coeff 32 (addsd xmm1 xmm5 (movdqu_xe xmm4 Tbl.coeff 16 (movdqu_xi xmm0 tmp2 edx 1 0 (shrl edx 12 (andl_ri edx 16711680 (subsd xmm5 xmm2 (movdqu_xe xmm3 Tbl.coeff 0 (movq_xe xmm6 Tbl.log2 0 (mulsd xmm1 xmm0 (cvtsi2sdl xmm7 eax (subl_rr eax ecx (andl_ri eax 32752 (mulpd xmm5 xmm0 (subsd xmm1 xmm5 (pand xmm0 xmm6 (pand xmm5 xmm1 (psllq xmm0 29 (movdl_rx edx xmm0 (por xmm1 xmm3 (paddd xmm0 xmm4 (bind Label.L_2TAG_PACKET_1_0_2 s)))))))))))))))))))))))))))))))) else (movlhps xmm6 xmm6 (movdqu_xx xmm6 xmm0 (mulpd xmm5 xmm5 (mulpd xmm4 xmm5 (addsd xmm0 xmm6 (mulsd xmm3 xmm1 (mulsd_xe xmm7 Tbl.log2 8 (if cpu.supports_sse3 then (movddup xmm5 xmm1 (mulsd xmm6 xmm7 (movdqu_xe xmm2 Tbl.coeff 32 (addsd xmm1 xmm5 (movdqu_xe xmm4 Tbl.coeff 16 (movdqu_xi xmm0 tmp2 edx 1 0 (shrl edx 12 (andl_ri edx 16711680 (subsd xmm5 xmm2 (movdqu_xe xmm3 Tbl.coeff 0 (movq_xe xmm6 Tbl.log2 0 (mulsd xmm1 xmm0 (cvtsi2sdl xmm7 eax (subl_rr eax ecx (andl_ri eax 32752 (mulpd xmm5 xmm0 (subsd xmm1 xmm5 (pand xmm0 xmm6 (pand xmm5 xmm1 (psllq xmm0 29 (movdl_rx edx xmm0 (por xmm1 xmm3 (paddd xmm0 xmm4 (bind Label.L_2TAG_PACKET_1_0_2 s)))))))))))))))))))))))) else (movlhps xmm5 xmm5 (movdqu_xx xmm5 xmm1 (mulsd xmm6 xmm7 (movdqu_xe xmm2 Tbl.coeff 32 (addsd xmm1 xmm5 (movdqu_xe xmm4 Tbl.coeff 16 (movdqu_xi xmm0 tmp2 edx 1 0 (shrl edx 12 (andl_ri edx 16711680 (subsd xmm5 xmm2 (movdqu_xe xmm3 Tbl.coeff 0 (movq_xe xmm6 Tbl.log2 0 (mulsd xmm1 xmm0 (cvtsi2sdl xmm7 eax (subl_rr eax ecx (andl_ri eax 32752 (mulpd xmm5 xmm0 (subsd xmm1 xmm5 (pand xmm0 xmm6 (pand xmm5 xmm1 (psllq xmm0 29 (movdl_rx edx xmm0 (por xmm1 xmm3 (paddd xmm0 xmm4 (bind Label.L_2TAG_PACKET_1_0_2 s)))))))))))))))))))))))))))))))))))))))))))))))))).get l) ∧
    ((L_2TAG_PACKET_1_0_2_1 cpu s).trace = (addsd xmm0 xmm1 (addsd xmm1 xmm5 (pshufd xmm5 xmm4 238 (addsd xmm1 xmm4 (mulpd xmm4 xmm5 (addsd xmm1 xmm7 (addpd xmm4 xmm3 (addsd xmm7 xmm2 (mulsd xmm5 xmm5 (addsd xmm1 xmm6 (pshufd xmm2 xmm0 238 (mulsd xmm4 xmm1 (subsd xmm6 xmm0 (mulpd xmm3 xmm5 (addpd xmm4 xmm2 (addsd xmm0 xmm1 (if cpu.supports_sse3 then (movddup xmm6 xmm0 (mulpd xmm5 xmm5 (mulpd xmm4 xmm5 (addsd xmm0 xmm6 (mulsd xmm3 xmm1 (mulsd_xe xmm7 Tbl.log2 8 (if cpu.supports_sse3 then (movddup xmm5 xmm1 (mulsd xmm6 xmm7 (movdqu_xe xmm2 Tbl.coeff 32 (addsd xmm1 xmm5 (movdqu_xe xmm4 Tbl.coeff 16 (movdqu_xi xmm0 tmp2 edx 1 0 (shrl edx 12 (andl_ri edx 16711680 (subsd xmm5 xmm2 (movdqu_xe xmm3 Tbl.coeff 0 (movq_xe xmm6 Tbl.log2 0 (mulsd xmm1 xmm0 (cvtsi2sdl xmm7 eax (subl_rr eax ecx (andl_ri eax 32752 (mulpd xmm5 xmm0 (subsd xmm1 xmm5 (pand xmm0 xmm6 (pand xmm5 xmm1 (psllq xmm0 29 (movdl_rx edx xmm0 (por xmm1 xmm3 (paddd xmm0 xmm4 (bind Label.L_2TAG_PACKET_1_0_2 s)))))))))))))))))))))))) else (movlhps xmm5 xmm5 (movdqu_xx xmm5 xmm1 (mulsd xmm6 xmm7 (movdqu_xe xmm2 Tbl.coeff 32 (addsd xmm1 xmm5 (movdqu_xe xmm4 Tbl.coeff 16 (movdqu_xi xmm0 tmp2 edx 1 0 (shrl edx 12 (andl_ri edx 16711680 (subsd xmm5 xmm2 (movdqu_xe xmm3 Tbl.coeff 0 (movq_xe xmm6 Tbl.log2 0 (mulsd xmm1 xmm0 (cvtsi2sdl xmm7 eax (subl_rr eax ecx (andl_ri eax 32752 (mulpd xmm5 xmm0 (subsd xmm1 xmm5 (pand xmm0 xmm6 (pand xmm5 xmm1 (psllq xmm0 29 (movdl_rx edx xmm0 (por xmm1 xmm3 (paddd xmm0 xmm4 (bind Label.L_2TAG_PACKET_1_0_2 s)))))))))))))))))))))))))))))))) else (movlhps xmm6 xmm6 (movdqu_xx xmm6 xmm0 (mulpd xmm5 xmm5 (mulpd xmm4 xmm5 (addsd xmm0 xmm6 (mulsd xmm3 xmm1 (mulsd_xe xmm7 Tbl.log2 8 (if cpu.supports_sse3 then (movddup xmm5 xmm1 (mulsd xmm6 xmm7 (movdqu_xe xmm2 Tbl.coeff 32 (addsd xmm1 xmm5 (movdqu_xe xmm4 Tbl.coeff 16 (movdqu_xi xmm0 tmp2 edx 1 0 (shrl edx 12 (andl_ri edx 16711680 (subsd xmm5 xmm2 (movdqu_xe xmm3 Tbl.coeff 0 (movq_xe xmm6 Tbl.log2 0 (mulsd xmm1 xmm0 (cvtsi2sdl xmm7 eax (subl_rr eax ecx (andl_ri eax 32752 (mulpd xmm5 xmm0 (subsd xmm1 xmm5 (pand xmm0 xmm6 (pand xmm5 xmm1 (psllq xmm0 29 (movdl_rx edx xmm0 (por xmm1 xmm3 (paddd xmm0 xmm4 (bind Label.L_2TAG_PACKET_1_0_2 s)))))))))))))))))))))))) else (movlhps xmm5 xmm5 (movdqu_xx xmm5 xmm1 (mulsd xmm6 xmm7 (movdqu_xe xmm2 Tbl.coeff 32 (addsd xmm1 xmm5 (movdqu_xe xmm4 Tbl.coeff 16 (movdqu_xi xmm0 tmp2 edx 1 0 (shrl edx 12 (andl_ri edx 16711680 (subsd xmm5 xmm2 (movdqu_xe xmm3 Tbl.coeff 0 (movq_xe xmm6 Tbl.log2 0 (mulsd xmm1 xmm0 (cvtsi2sdl xmm7 eax (subl_rr eax ecx (andl_ri eax 32752 (mulpd xmm5 xmm0 (subsd xmm1 xmm5 (pand xmm0 xmm6 (pand xmm5 xmm1 (psllq xmm0 29 (movdl_rx edx xmm0 (por xmm1 xmm3 (paddd xmm0 xmm4 (bind Label.L_2TAG_PACKET_1_0_2 s)))))))))))))))))))))))))))))))))))))))))))))))))).trace) :=
  ⟨fun _ => rfl, rfl⟩

theorem log_L_2TAG_PACKET_3_0_2_1_sem (cpu : Cpu) (s : Machine) :
    (∀ l, (L_2TAG_PACKET_3_0_2_1 cpu s).get l = (cmpl_ri edx 0 (orl_rr edx ecx (movdl_rx ecx xmm1 (psrlq xmm1 32 (movdl_rx edx xmm1 (addsd xmm1 xmm0 (xorpd xmm1 xmm1 (bind Label.L_2TAG_PACKET_3_0_2 s)))))))).get l) ∧
    ((L_2TAG_PACKET_3_0_2_1 cpu s).trace = (cmpl_ri edx 0 (orl_rr edx ecx (movdl_rx ecx xmm1 (psrlq xmm1 32 (movdl_rx edx xmm1 (addsd xmm1 xmm0 (xorpd xmm1 xmm1 (bind Label.L_2TAG_PACKET_3_0_2 s)))))))).trace) :=
  ⟨fun _ => rfl, rfl⟩

theorem log_L_2TAG_PACKET_3_0_2_2_sem (cpu : Cpu) (s : Machine) :
    (∀ l, (L_2TAG_PACKET_3_0_2_2 cpu s).get l = (psrlq xmm1 12 (pshufd xmm6 xmm5 228 (psllq xmm1 12 (rcpps cpu.rcp xmm0 xmm0 (psrld xmm0 2 (movl_ri ecx 18416 (psrlq xmm0 27 (por xmm0 xmm2 (pextrw eax xmm0 3 (movdqu_xx xmm1 xmm0 (mulsd xmm0 xmm1 (pinsrw xmm1 eax 3 (movl_ri eax 18416 (xorpd xmm1 xmm1 s)))))))))))))).get l) ∧
    ((L_2TAG_PACKET_3_0_2_2 cpu s).trace = (psrlq xmm1 12 (pshufd xmm6 xmm5 228 (psllq xmm1 12 (rcpps cpu.rcp xmm0 xmm0 (psrld xmm0 2 (movl_ri ecx 18416 (psrlq xmm0 27 (por xmm0 xmm2 (pextrw eax xmm0 3 (movdqu_xx xmm1 xmm0 (mulsd xmm0 xmm1 (pinsrw xmm1 eax 3 (movl_ri eax 18416 (xorpd xmm1 xmm1 s)))))))))))))).trace) :=
  ⟨fun _ => rfl, rfl⟩

theorem log_L_2TAG_PACKET_0_0_2_1_sem (cpu : Cpu) (s : Machine) :
    (∀ l, (L_2TAG_PACKET_0_0_2_1 cpu s).get l = (cmpl_ri eax 32768 (addl_ri eax 16 (movq_xm xmm1 0 (movq_xm xmm0 0 (bind Label.L_2TAG_PACKET_0_0_2 s))))).get l) ∧
    ((L_2TAG_PACKET_0_0_2_1 cpu s).trace = (cmpl_ri eax 32768 (addl_ri eax 16 (movq_xm xmm1 0 (movq_xm xmm0 0 (bind Label.L_2TAG_PACKET_0_0_2 s))))).trace) :=
  ⟨fun _ => rfl, rfl⟩

theorem log_L_2TAG_PACKET_0_0_2_2_sem (cpu : Cpu) (s : Machine) :
    (∀ l, (L_2TAG_PACKET_0_0_2_2 cpu s).get l = (cmpl_ri eax 16 s).get l) ∧
    ((L_2TAG_PACKET_0_0_2_2 cpu s).trace = (cmpl_ri eax 16 s).trace) :=
  ⟨fun _ => rfl, rfl⟩

theorem log_L_2TAG_PACKET_0_0_2_3_sem (cpu : Cpu) (s : Machine) :
    (∀ l, (L_2TAG_PACKET_0_0_2_3 cpu s).get l = s.get l) ∧
    ((L_2TAG_PACKET_0_0_2_3 cpu s).trace = s.trace) :=
  ⟨fun _ => rfl, rfl⟩

theorem log_start_1_sem (cpu : Cpu) (s : Machine) :
    (∀ l, (start_1 cpu s).get l = (cmpl_ri eax 32736 (subl_ri eax 16 (psrlq xmm1 12 (pshufd xmm6 xmm5 228 (psllq xmm1 12 (rcpps cpu.rcp xmm0 xmm0 (psrld xmm0 2 (lea tmp2 Tbl.L_tbl (psrlq xmm0 27 (movl_ri ecx 16352 (por xmm0 xmm2 (pextrw eax xmm0 3 (movdqu_xx xmm1 xmm0 (movdq_xr xmm5 tmp1 (mov64 tmp1 0xffffe00000000000 (movdl_xr xmm4 ecx (movl_ri ecx 32768 (movdq_xr xmm3 edx (mov64 edx 0x77f0000000000000 (movdq_xr xmm2 eax (mov64 eax 0x3ff0000000000000 (movsd_mx 0 xmm0 (subq_rsp 24 (bind Label.start s)))))))))))))))))))))))).get l) ∧
    ((start_1 cpu s).trace = (cmpl_ri eax 32736 (subl_ri eax 16 (psrlq xmm1 12 (pshufd xmm6 xmm5 228 (psllq xmm1 12 (rcpps cpu.rcp xmm0 xmm0 (psrld xmm0 2 (lea tmp2 Tbl.L_tbl (psrlq xmm0 27 (movl_ri ecx 16352 (por xmm0 xmm2 (pextrw eax xmm0 3 (movdqu_xx xmm1 xmm0 (movdq_xr xmm5 tmp1 (mov64 tmp1 0xffffe00000000000 (movdl_xr xmm4 ecx (movl_ri ecx 32768 (movdq_xr xmm3 edx (mov64 edx 0x77f0000000000000 (movdq_xr xmm2 eax (mov64 eax 0x3ff0000000000000 (movsd_mx 0 xmm0 (subq_rsp 24 (bind Label.start s)))))))))))))))))))))))).trace) :=
  ⟨fun _ => rfl, rfl⟩

theorem log_start_2_sem (cpu : Cpu) (s : Machine) :
    (∀ l, (start_2 cpu s).get l = s.get l) ∧
    ((start_2 cpu s).trace = s.trace) :=
  ⟨fun _ => rfl, rfl⟩

theorem log_entry_1_sem (cpu : Cpu) (s : Machine) :
    (∀ l, (entry_1 cpu s).get l = (bind Label.entry s).get l) ∧
    ((entry_1 cpu s).trace = (bind Label.entry s).trace) :=
  ⟨fun _ => rfl, rfl⟩

end fast_log

end MacroAssembler

namespace MacroAssembler
open XReg GReg Machine

namespace fast_pow

theorem pow_B1_5_1_sem (cpu : Cpu) (s : Machine) :
    (∀ l, (B1_5_1 cpu s).get l = (addq_rsp 40 (bind Label.B1_5 s)).get l) ∧
    ((B1_5_1 cpu s).trace = (addq_rsp 40 (bind Label.B1_5 s)).trace) :=
  ⟨fun _ => rfl, rfl⟩

theorem pow_L_2TAG_PACKET_56_0_2_1_sem (cpu : Cpu) (s : Machine) :
    (∀ l, (L_2TAG_PACKET_56_0_2_1 cpu s).get l = (bind Label.L_2TAG_PACKET_56_0_2 s).get l) ∧
    ((L_2TAG_PACKET_56_0_2_1 cpu s).trace = (bind Label.L_2TAG_PACKET_56_0_2 s).trace) :=
  ⟨fun _ => rfl, rfl⟩

theorem pow_B1_3_1_sem (cpu : Cpu) (s : Machine) :
    (∀ l, (B1_3_1 cpu s).get l = (movq_xm xmm0 24 (bind Label.B1_3 s)).get l) ∧
    ((B1_3_1 cpu s).trace = (movq_xm xmm0 24 (bind Label.B1_3 s)).trace) :=
  ⟨fun _ => rfl, rfl⟩

theorem pow_L_2TAG_PACKET_17_0_2_1_sem (cpu : Cpu) (s : Machine) :
    (∀ l, (L_2TAG_PACKET_17_0_2_1 cpu s).get l = (movq_mx 24 xmm0 (bind Label.L_2TAG_PACKET_17_0_2 s)).get l) ∧
    ((L_2TAG_PACKET_17_0_2_1 cpu s).trace = (movq_mx 24 xmm0 (bind Label.L_2TAG_PACKET_17_0_2 s)).trace) :=
  ⟨fun _ => rfl, rfl⟩

theorem pow_L_2TAG_PACKET_44_0_2_1_sem (cpu : Cpu) (s : Machine) :
    (∀ l, (L_2TAG_PACKET_44_0_2_1 cpu s).get l = (movl_mi 0 27 (movdqu_xx xmm0 xmm1 (divsd xmm1 xmm0 (pinsrw xmm1 eax 3 (xorpd xmm1 xmm1 (movl_ri eax 16368 (bind Label.L_2TAG_PACKET_44_0_2 s))))))).get l) ∧
    ((L_2TAG_PACKET_44_0_2_1 cpu s).trace = (movl_mi 0 27 (movdqu_xx xmm0 xmm1 (divsd xmm1 xmm0 (pinsrw xmm1 eax 3 (xorpd xmm1 xmm1 (movl_ri eax 16368 (bind Label.L_2TAG_PACKET_44_0_2 s))))))).trace) :=
  ⟨fun _ => rfl, rfl⟩

theorem pow_L_2TAG_PACKET_22_0_2_1_sem (cpu : Cpu) (s : Machine) :
    (∀ l, (L_2TAG_PACKET_22_0_2_1 cpu s).get l = (xorpd xmm0 xmm0 (bind Label.L_2TAG_PACKET_22_0_2 s)).get l) ∧
    ((L_2TAG_PACKET_22_0_2_1 cpu s).trace = (xorpd xmm0 xmm0 (bind Label.L_2TAG_PACKET_22_0_2 s)).trace) :=
  ⟨fun _ => rfl, rfl⟩

theorem pow_L_2TAG_PACKET_41_0_2_1_sem (cpu : Cpu) (s : Machine) :
    (∀ l, (L_2TAG_PACKET_41_0_2_1 cpu s).get l = (testl_ri ecx 0x80000000 (bind Label.L_2TAG_PACKET_41_0_2 s)).get l) ∧
    ((L_2TAG_PACKET_41_0_2_1 cpu s).trace = (testl_ri ecx 0x80000000 (bind Label.L_2TAG_PACKET_41_0_2 s)).trace) :=
  ⟨fun _ => rfl, rfl⟩

theorem pow_L_2TAG_PACKET_41_0_2_2_sem (cpu : Cpu) (s : Machine) :
    (∀ l, (L_2TAG_PACKET_41_0_2_2 cpu s).get l = (xorpd xmm0 xmm0 s).get l) ∧
    ((L_2TAG_PACKET_41_0_2_2 cpu s).trace = (xorpd xmm0 xmm0 s).trace) :=
  ⟨fun _ => rfl, rfl⟩

theorem pow_L_2TAG_PACKET_43_0_2_1_sem (cpu : Cpu) (s : Machine) :
    (∀ l, (L_2TAG_PACKET_43_0_2_1 cpu s).get l = (testl_ri ecx 0x80000000 (movq_xm xmm0 8 (bind Label.L_2TAG_PACKET_43_0_2 s))).get l) ∧
    ((L_2TAG_PACKET_43_0_2_1 cpu s).trace = (testl_ri ecx 0x80000000 (movq_xm xmm0 8 (bind Label.L_2TAG_PACKET_43_0_2 s))).trace) :=
  ⟨fun _ => rfl, rfl⟩

theorem pow_L_2TAG_PACKET_43_0_2_2_sem (cpu : Cpu) (s : Machine) :
    (∀ l, (L_2TAG_PACKET_43_0_2_2 cpu s).get l = s.get l) ∧
    ((L_2TAG_PACKET_43_0_2_2 cpu s).trace = s.trace) :=
  ⟨fun _ => rfl, rfl⟩

theorem pow_L_2TAG_PACKET_42_0_2_1_sem (cpu : Cpu) (s : Machine) :
    (∀ l, (L_2TAG_PACKET_42_0_2_1 cpu s).get l = (testl_ri eax 1 (movdl_rx eax xmm1 (movq_xm xmm1 16 (bind Label.L_2TAG_PACKET_42_0_2 s)))).get l) ∧
    ((L_2TAG_PACKET_42_0_2_1 cpu s).trace = (testl_ri eax 1 (movdl_rx eax xmm1 (movq_xm xmm1 16 (bind Label.L_2TAG_PACKET_42_0_2 s)))).trace) :=
  ⟨fun _ => rfl, rfl⟩

theorem pow_L_2TAG_PACKET_42_0_2_2_sem (cpu : Cpu) (s : Machine) :
    (∀ l, (L_2TAG_PACKET_42_0_2_2 cpu s).get l = s.get l) ∧
    ((L_2TAG_PACKET_42_0_2_2 cpu s).trace = s.trace) :=
  ⟨fun _ => rfl, rfl⟩

theorem pow_L_2TAG_PACKET_39_0_2_1_sem (cpu : Cpu) (s : Machine) :
    (∀ l, (L_2TAG_PACKET_39_0_2_1 cpu s).get l = (movl_mi 0 26 (pinsrw xmm0 eax 3 (movl_ri eax 16368 (xorpd xmm0 xmm0 (bind Label.L_2TAG_PACKET_39_0_2 s))))).get l) ∧
    ((L_2TAG_PACKET_39_0_2_1 cpu s).trace = (movl_mi 0 26 (pinsrw xmm0 eax 3 (movl_ri eax 16368 (xorpd xmm0 xmm0 (bind Label.L_2TAG_PACKET_39_0_2 s))))).trace) :=
  ⟨fun _ => rfl, rfl⟩

theorem pow_L_2TAG_PACKET_40_0_2_1_sem (cpu : Cpu) (s : Machine) :
    (∀ l, (L_2TAG_PACKET_40_0_2_1 cpu s).get l = (orl_rr eax edx (addl_rr edx edx (movl_rr ecx edx (movdl_rx edx xmm1 (psrlq xmm1 32 (movdl_rx eax xmm1 (bind Label.L_2TAG_PACKET_40_0_2 s))))))).get l) ∧
    ((L_2TAG_PACKET_40_0_2_1 cpu s).trace = (orl_rr eax edx (addl_rr edx edx (movl_rr ecx edx (movdl_rx edx xmm1 (psrlq xmm1 32 (movdl_rx eax xmm1 (bind Label.L_2TAG_PACKET_40_0_2 s))))))).trace) :=
  ⟨fun _ => rfl, rfl⟩

theorem pow_L_2TAG_PACKET_40_0_2_2_sem (cpu : Cpu) (s : Machine) :
    (∀ l, (L_2TAG_PACKET_40_0_2_2 cpu s).get l = (cmpl_ri edx 1075 (shrl edx 21 s)).get l) ∧
    ((L_2TAG_PACKET_40_0_2_2 cpu s).trace = (cmpl_ri edx 1075 (shrl edx 21 s)).trace) :=
  ⟨fun _ => rfl, rfl⟩

theorem pow_L_2TAG_PACKET_40_0_2_3_sem (cpu : Cpu) (s : Machine) :
    (∀ l, (L_2TAG_PACKET_40_0_2_3 cpu s).get l = s.get l) ∧
    ((L_2TAG_PACKET_40_0_2_3 cpu s).trace = s.trace) :=
  ⟨fun _ => rfl, rfl⟩

theorem pow_L_2TAG_PACKET_40_0_2_4_sem (cpu : Cpu) (s : Machine) :
    (∀ l, (L_2TAG_PACKET_40_0_2_4 cpu s).get l = (cmpl_ri edx 1023 s).get l) ∧
    ((L_2TAG_PACKET_40_0_2_4 cpu s).trace = (cmpl_ri edx 1023 s).trace) :=
  ⟨fun _ => rfl, rfl⟩

theorem pow_L_2TAG_PACKET_40_0_2_5_sem (cpu : Cpu) (s : Machine) :
    (∀ l, (L_2TAG_PACKET_40_0_2_5 cpu s).get l = (andl_ri eax 32752 (pextrw eax xmm1 3 (addsd xmm1 xmm4 (subsd xmm4 xmm3 (addsd xmm3 xmm1 (movdqu_xx xmm4 xmm3 (pinsrw xmm3 eax 3 (xorpd xmm3 xmm3 (movl_ri eax 17208 (movq_xm xmm1 16 s)))))))))).get l) ∧
    ((L_2TAG_PACKET_40_0_2_5 cpu s).trace = (andl_ri eax 32752 (pextrw eax xmm1 3 (addsd xmm1 xmm4 (subsd xmm4 xmm3 (addsd xmm3 xmm1 (movdqu_xx xmm4 xmm3 (pinsrw xmm3 eax 3 (xorpd xmm3 xmm3 (movl_ri eax 17208 (movq_xm xmm1 16 s)))))))))).trace) :=
  ⟨fun _ => rfl, rfl⟩

theorem pow_L_2TAG_PACKET_40_0_2_6_sem (cpu : Cpu) (s : Machine) :
    (∀ l, (L_2TAG_PACKET_40_0_2_6 cpu s).get l = (andl_ri eax 1 (movdl_rx eax xmm3 s)).get l) ∧
    ((L_2TAG_PACKET_40_0_2_6 cpu s).trace = (andl_ri eax 1 (movdl_rx eax xmm3 s)).trace) :=
  ⟨fun _ => rfl, rfl⟩

theorem pow_L_2TAG_PACKET_40_0_2_7_sem (cpu : Cpu) (s : Machine) :
    (∀ l, (L_2TAG_PACKET_40_0_2_7 cpu s).get l = s.get l) ∧
    ((L_2TAG_PACKET_40_0_2_7 cpu s).trace = s.trace) :=
  ⟨fun _ => rfl, rfl⟩

theorem pow_L_2TAG_PACKET_18_0_2_1_sem (cpu : Cpu) (s : Machine) :
    (∀ l, (L_2TAG_PACKET_18_0_2_1 cpu s).get l = (addpd xmm0 xmm0 (movq_xm xmm0 16 (bind Label.L_2TAG_PACKET_18_0_2 s))).get l) ∧
    ((L_2TAG_PACKET_18_0_2_1 cpu s).trace = (addpd xmm0 xmm0 (movq_xm xmm0 16 (bind Label.L_2TAG_PACKET_18_0_2 s))).trace) :=
  ⟨fun _ => rfl, rfl⟩

theorem pow_L_2TAG_PACKET_9_0_2_1_sem (cpu : Cpu) (s : Machine) :
    (∀ l, (L_2TAG_PACKET_9_0_2_1 cpu s).get l = (cmpl_ri eax 32752 (andl_ri eax 32752 (pextrw eax xmm1 3 (movdqu_xx xmm2 xmm1 (movq_xm xmm1 16 (bind Label.L_2TAG_PACKET_9_0_2 s)))))).get l) ∧
    ((L_2TAG_PACKET_9_0_2_1 cpu s).trace = (cmpl_ri eax 32752 (andl_ri eax 32752 (pextrw eax xmm1 3 (movdqu_xx xmm2 xmm1 (movq_xm xmm1 16 (bind Label.L_2TAG_PACKET_9_0_2 s)))))).trace) :=
  ⟨fun _ => rfl, rfl⟩

theorem pow_L_2TAG_PACKET_9_0_2_2_sem (cpu : Cpu) (s : Machine) :
    (∀ l, (L_2TAG_PACKET_9_0_2_2 cpu s).get l = (orl_rr eax edx (movdl_rx edx xmm2 (psrlq xmm2 20 (movdl_rx eax xmm2 s)))).get l) ∧
    ((L_2TAG_PACKET_9_0_2_2 cpu s).trace = (orl_rr eax edx (movdl_rx edx xmm2 (psrlq xmm2 20 (movdl_rx eax xmm2 s)))).trace) :=
  ⟨fun _ => rfl, rfl⟩

theorem pow_L_2TAG_PACKET_9_0_2_3_sem (cpu : Cpu) (s : Machine) :
    (∀ l, (L_2TAG_PACKET_9_0_2_3 cpu s).get l = s.get l) ∧
    ((L_2TAG_PACKET_9_0_2_3 cpu s).trace = s.trace) :=
  ⟨fun _ => rfl, rfl⟩

theorem pow_L_2TAG_PACKET_37_0_2_1_sem (cpu : Cpu) (s : Machine) :
    (∀ l, (L_2TAG_PACKET_37_0_2_1 cpu s).get l = (pinsrw xmm0 eax 3 (movl_ri eax 16368 (xorpd xmm0 xmm0 (bind Label.L_2TAG_PACKET_37_0_2 s)))).get l) ∧
    ((L_2TAG_PACKET_37_0_2_1 cpu s).trace = (pinsrw xmm0 eax 3 (movl_ri eax 16368 (xorpd xmm0 xmm0 (bind Label.L_2TAG_PACKET_37_0_2 s)))).trace) :=
  ⟨fun _ => rfl, rfl⟩

theorem pow_L_2TAG_PACKET_48_0_2_1_sem (cpu : Cpu) (s : Machine) :
    (∀ l, (L_2TAG_PACKET_48_0_2_1 cpu s).get l = (movl_mi 0 25 (bind Label.L_2TAG_PACKET_48_0_2 s)).get l) ∧
    ((L_2TAG_PACKET_48_0_2_1 cpu s).trace = (movl_mi 0 25 (bind Label.L_2TAG_PACKET_48_0_2 s)).trace) :=
  ⟨fun _ => rfl, rfl⟩

theorem pow_L_2TAG_PACKET_50_0_2_1_sem (cpu : Cpu) (s : Machine) :
    (∀ l, (L_2TAG_PACKET_50_0_2_1 cpu s).get l = (bind Label.L_2TAG_PACKET_50_0_2 s).get l) ∧
    ((L_2TAG_PACKET_50_0_2_1 cpu s).trace = (bind Label.L_2TAG_PACKET_50_0_2 s).trace) :=
  ⟨fun _ => rfl, rfl⟩

theorem pow_L_2TAG_PACKET_49_0_2_1_sem (cpu : Cpu) (s : Machine) :
    (∀ l, (L_2TAG_PACKET_49_0_2_1 cpu s).get l = (addsd xmm0 xmm5 (mulsd xmm5 xmm4 (mulsd xmm0 xmm4 (addsd xmm5 xmm1 (subsd xmm5 xmm0 (pand xmm0 xmm5 (psllq xmm0 32 (movdl_xr xmm0 eax (bind Label.L_2TAG_PACKET_49_0_2 s))))))))).get l) ∧
    ((L_2TAG_PACKET_49_0_2_1 cpu s).trace = (addsd xmm0 xmm5 (mulsd xmm5 xmm4 (mulsd xmm0 xmm4 (addsd xmm5 xmm1 (subsd xmm5 xmm0 (pand xmm0 xmm5 (psllq xmm0 32 (movdl_xr xmm0 eax (bind Label.L_2TAG_PACKET_49_0_2 s))))))))).trace) :=
  ⟨fun _ => rfl, rfl⟩

theorem pow_L_2TAG_PACKET_13_0_2_1_sem (cpu : Cpu) (s : Machine) :
    (∀ l, (L_2TAG_PACKET_13_0_2_1 cpu s).get l = (subl_rr ecx edx (sarl edx 4 (movl_ri ecx 0xFFFFFFE1 (addl_rr edx ecx (andl_ri edx 32752 (subl_ri ecx 16368 (andl_ri ecx 32752 (movl_ri eax 0xFFFFFFFF (pextrw edx xmm4 3 (pextrw ecx xmm5 3 (bind Label.L_2TAG_PACKET_13_0_2 s))))))))))).get l) ∧
    ((L_2TAG_PACKET_13_0_2_1 cpu s).trace = (subl_rr ecx edx (sarl edx 4 (movl_ri ecx 0xFFFFFFE1 (addl_rr edx ecx (andl_ri edx 32752 (subl_ri ecx 16368 (andl_ri ecx 32752 (movl_ri eax 0xFFFFFFFF (pextrw edx xmm4 3 (pextrw ecx xmm5 3 (bind Label.L_2TAG_PACKET_13_0_2 s))))))))))).trace) :=
  ⟨fun _ => rfl, rfl⟩

theorem pow_L_2TAG_PACKET_13_0_2_2_sem (cpu : Cpu) (s : Machine) :
    (∀ l, (L_2TAG_PACKET_13_0_2_2 cpu s).get l = (cmpl_ri ecx 20 s).get l) ∧
    ((L_2TAG_PACKET_13_0_2_2 cpu s).trace = (cmpl_ri ecx 20 s).trace) :=
  ⟨fun _ => rfl, rfl⟩

theorem pow_L_2TAG_PACKET_13_0_2_3_sem (cpu : Cpu) (s : Machine) :
    (∀ l, (L_2TAG_PACKET_13_0_2_3 cpu s).get l = (shll_cl eax s).get l) ∧
    ((L_2TAG_PACKET_13_0_2_3 cpu s).trace = (shll_cl eax s).trace) :=
  ⟨fun _ => rfl, rfl⟩

theorem pow_L_2TAG_PACKET_14_0_2_1_sem (cpu : Cpu) (s : Machine) :
    (∀ l, (L_2TAG_PACKET_14_0_2_1 cpu s).get l = (movl_mi 0 24 (bind Label.L_2TAG_PACKET_14_0_2 s)).get l) ∧
    ((L_2TAG_PACKET_14_0_2_1 cpu s).trace = (movl_mi 0 24 (bind Label.L_2TAG_PACKET_14_0_2 s)).trace) :=
  ⟨fun _ => rfl, rfl⟩

theorem pow_L_2TAG_PACKET_55_0_2_1_sem (cpu : Cpu) (s : Machine) :
    (∀ l, (L_2TAG_PACKET_55_0_2_1 cpu s).get l = (pinsrw xmm0 edx 3 (movl_ri edx 32752 (bind Label.L_2TAG_PACKET_55_0_2 s))).get l) ∧
    ((L_2TAG_PACKET_55_0_2_1 cpu s).trace = (pinsrw xmm0 edx 3 (movl_ri edx 32752 (bind Label.L_2TAG_PACKET_55_0_2 s))).trace) :=
  ⟨fun _ => rfl, rfl⟩

theorem pow_L_2TAG_PACKET_54_0_2_1_sem (cpu : Cpu) (s : Machine) :
    (∀ l, (L_2TAG_PACKET_54_0_2_1 cpu s).get l = (testl_ri eax 32768 (xorl_rr eax edx (subl_ri eax 16368 (xorpd xmm0 xmm0 (pextrw edx xmm1 3 (andl_ri eax 32752 (pextrw eax xmm0 3 (bind Label.L_2TAG_PACKET_54_0_2 s)))))))).get l) ∧
    ((L_2TAG_PACKET_54_0_2_1 cpu s).trace = (testl_ri eax 32768 (xorl_rr eax edx (subl_ri eax 16368 (xorpd xmm0 xmm0 (pextrw edx xmm1 3 (andl_ri eax 32752 (pextrw eax xmm0 3 (bind Label.L_2TAG_PACKET_54_0_2 s)))))))).trace) :=
  ⟨fun _ => rfl, rfl⟩

theorem pow_L_2TAG_PACKET_54_0_2_2_sem (cpu : Cpu) (s : Machine) :
    (∀ l, (L_2TAG_PACKET_54_0_2_2 cpu s).get l = s.get l) ∧
    ((L_2TAG_PACKET_54_0_2_2 cpu s).trace = s.trace) :=
  ⟨fun _ => rfl, rfl⟩

theorem pow_L_2TAG_PACKET_53_0_2_1_sem (cpu : Cpu) (s : Machine) :
    (∀ l, (L_2TAG_PACKET_53_0_2_1 cpu s).get l = (orl_rr ecx edx (movdl_rx ecx xmm3 (psrlq xmm3 20 (movdqu_xx xmm3 xmm1 (movdl_rx edx xmm1 (movq_xm xmm1 16 (bind Label.L_2TAG_PACKET_53_0_2 s))))))).get l) ∧
    ((L_2TAG_PACKET_53_0_2_1 cpu s).trace = (orl_rr ecx edx (movdl_rx ecx xmm3 (psrlq xmm3 20 (movdqu_xx xmm3 xmm1 (movdl_rx edx xmm1 (movq_xm xmm1 16 (bind Label.L_2TAG_PACKET_53_0_2 s))))))).trace) :=
  ⟨fun _ => rfl, rfl⟩

theorem pow_L_2TAG_PACKET_53_0_2_2_sem (cpu : Cpu) (s : Machine) :
    (∀ l, (L_2TAG_PACKET_53_0_2_2 cpu s).get l = (movdqu_xx xmm0 xmm1 (addsd xmm1 xmm1 s)).get l) ∧
    ((L_2TAG_PACKET_53_0_2_2 cpu s).trace = (movdqu_xx xmm0 xmm1 (addsd xmm1 xmm1 s)).trace) :=
  ⟨fun _ => rfl, rfl⟩

theorem pow_L_2TAG_PACKET_45_0_2_1_sem (cpu : Cpu) (s : Machine) :
    (∀ l, (L_2TAG_PACKET_45_0_2_1 cpu s).get l = (cmpl_ri eax 0 (pextrw eax xmm2 3 (addsd xmm2 xmm0 (pinsrw xmm2 eax 3 (movl_ri eax 49136 (xorpd xmm2 xmm2 (movq_xm xmm0 8 (bind Label.L_2TAG_PACKET_45_0_2 s)))))))).get l) ∧
    ((L_2TAG_PACKET_45_0_2_1 cpu s).trace = (cmpl_ri eax 0 (pextrw eax xmm2 3 (addsd xmm2 xmm0 (pinsrw xmm2 eax 3 (movl_ri eax 49136 (xorpd xmm2 xmm2 (movq_xm xmm0 8 (bind Label.L_2TAG_PACKET_45_0_2 s)))))))).trace) :=
  ⟨fun _ => rfl, rfl⟩

theorem pow_L_2TAG_PACKET_45_0_2_2_sem (cpu : Cpu) (s : Machine) :
    (∀ l, (L_2TAG_PACKET_45_0_2_2 cpu s).get l = (pinsrw xmm0 eax 3 (movl_ri eax 32760 (xorpd xmm0 xmm0 s))).get l) ∧
    ((L_2TAG_PACKET_45_0_2_2 cpu s).trace = (pinsrw xmm0 eax 3 (movl_ri eax 32760 (xorpd xmm0 xmm0 s))).trace) :=
  ⟨fun _ => rfl, rfl⟩

theorem pow_L_2TAG_PACKET_46_0_2_1_sem (cpu : Cpu) (s : Machine) :
    (∀ l, (L_2TAG_PACKET_46_0_2_1 cpu s).get l = (testl_ri tmp1 0x80000000 (mulsd xmm0 xmm0 (pinsrw xmm0 eax 3 (movl_ri eax 16 (bind Label.L_2TAG_PACKET_46_0_2 s))))).get l) ∧
    ((L_2TAG_PACKET_46_0_2_1 cpu s).trace = (testl_ri tmp1 0x80000000 (mulsd xmm0 xmm0 (pinsrw xmm0 eax 3 (movl_ri eax 16 (bind Label.L_2TAG_PACKET_46_0_2 s))))).trace) :=
  ⟨fun _ => rfl, rfl⟩

theorem pow_L_2TAG_PACKET_46_0_2_2_sem (cpu : Cpu) (s : Machine) :
    (∀ l, (L_2TAG_PACKET_46_0_2_2 cpu s).get l = (xorpd xmm0 xmm2 (movdq_xr xmm2 tmp2 (mov64 tmp2 0x8000000000000000 s))).get l) ∧
    ((L_2TAG_PACKET_46_0_2_2 cpu s).trace = (xorpd xmm0 xmm2 (movdq_xr xmm2 tmp2 (mov64 tmp2 0x8000000000000000 s))).trace) :=
  ⟨fun _ => rfl, rfl⟩

theorem pow_L_2TAG_PACKET_47_0_2_1_sem (cpu : Cpu) (s : Machine) :
    (∀ l, (L_2TAG_PACKET_47_0_2_1 cpu s).get l = (mulsd xmm0 xmm1 (pinsrw xmm1 eax 3 (orl_rr eax tmp1 (shrl tmp1 16 (pinsrw xmm0 eax 3 (movl_ri eax 32736 (bind Label.L_2TAG_PACKET_47_0_2 s))))))).get l) ∧
    ((L_2TAG_PACKET_47_0_2_1 cpu s).trace = (mulsd xmm0 xmm1 (pinsrw xmm1 eax 3 (orl_rr eax tmp1 (shrl tmp1 16 (pinsrw xmm0 eax 3 (movl_ri eax 32736 (bind Label.L_2TAG_PACKET_47_0_2 s))))))).trace) :=
  ⟨fun _ => rfl, rfl⟩

theorem pow_L_2TAG_PACKET_12_0_2_1_sem (cpu : Cpu) (s : Machine) :
    (∀ l, (L_2TAG_PACKET_12_0_2_1 cpu s).get l = (cmpl_ri ecx 32752 (andl_rr ecx edx (movl_ri ecx 32752 (pextrw edx xmm6 3 (pextrw eax xmm2 3 (movq_xm xmm6 16 (movq_xm xmm2 8 (bind Label.L_2TAG_PACKET_12_0_2 s)))))))).get l) ∧
    ((L_2TAG_PACKET_12_0_2_1 cpu s).trace = (cmpl_ri ecx 32752 (andl_rr ecx edx (movl_ri ecx 32752 (pextrw edx xmm6 3 (pextrw eax xmm2 3 (movq_xm xmm6 16 (movq_xm xmm2 8 (bind Label.L_2TAG_PACKET_12_0_2 s)))))))).trace) :=
  ⟨fun _ => rfl, rfl⟩

theorem pow_L_2TAG_PACKET_12_0_2_2_sem (cpu : Cpu) (s : Machine) :
    (∀ l, (L_2TAG_PACKET_12_0_2_2 cpu s).get l = (testl_ri edx 32768 (xorl_rr edx eax (subl_ri eax 16368 (andl_ri eax 32752 s)))).get l) ∧
    ((L_2TAG_PACKET_12_0_2_2 cpu s).trace = (testl_ri edx 32768 (xorl_rr edx eax (subl_ri eax 16368 (andl_ri eax 32752 s)))).trace) :=
  ⟨fun _ => rfl, rfl⟩

theorem pow_L_2TAG_PACKET_12_0_2_3_sem (cpu : Cpu) (s : Machine) :
    (∀ l, (L_2TAG_PACKET_12_0_2_3 cpu s).get l = s.get l) ∧
    ((L_2TAG_PACKET_12_0_2_3 cpu s).trace = s.trace) :=
  ⟨fun _ => rfl, rfl⟩

theorem pow_L_2TAG_PACKET_38_0_2_1_sem (cpu : Cpu) (s : Machine) :
    (∀ l, (L_2TAG_PACKET_38_0_2_1 cpu s).get l = (bind Label.L_2TAG_PACKET_38_0_2 s).get l) ∧
    ((L_2TAG_PACKET_38_0_2_1 cpu s).trace = (bind Label.L_2TAG_PACKET_38_0_2 s).trace) :=
  ⟨fun _ => rfl, rfl⟩

theorem pow_L_2TAG_PACKET_11_0_2_1_sem (cpu : Cpu) (s : Machine) :
    (∀ l, (L_2TAG_PACKET_11_0_2_1 cpu s).get l = (cmpl_ri eax 0 (addl_ri eax 384 (bind Label.L_2TAG_PACKET_11_0_2 s))).get l) ∧
    ((L_2TAG_PACKET_11_0_2_1 cpu s).trace = (cmpl_ri eax 0 (addl_ri eax 384 (bind Label.L_2TAG_PACKET_11_0_2 s))).trace) :=
  ⟨fun _ => rfl, rfl⟩

theorem pow_L_2TAG_PACKET_11_0_2_2_sem (cpu : Cpu) (s : Machine) :
    (∀ l, (L_2TAG_PACKET_11_0_2_2 cpu s).get l = (addsd xmm0 xmm5 (mulsd xmm5 xmm4 (addsd xmm5 xmm1 (pinsrw xmm0 eax 3 (orl_rr eax tmp1 (shll_ri tmp1 15 (movl_ri eax 16368 (xorpd xmm0 xmm0 (mulsd xmm1 xmm3 (movq_xi xmm4 tmp4 tmp1 8 0 (lea tmp4 Tbl.log2_pow (addsd xmm3 xmm0 (pshufd xmm0 xmm3 238 (addpd xmm3 xmm0 (shrl tmp1 31 (addsd xmm0 xmm7 (mulsd xmm5 xmm1 s))))))))))))))))).get l) ∧
    ((L_2TAG_PACKET_11_0_2_2 cpu s).trace = (addsd xmm0 xmm5 (mulsd xmm5 xmm4 (addsd xmm5 xmm1 (pinsrw xmm0 eax 3 (orl_rr eax tmp1 (shll_ri tmp1 15 (movl_ri eax 16368 (xorpd xmm0 xmm0 (mulsd xmm1 xmm3 (movq_xi xmm4 tmp4 tmp1 8 0 (lea tmp4 Tbl.log2_pow (addsd xmm3 xmm0 (pshufd xmm0 xmm3 238 (addpd xmm3 xmm0 (shrl tmp1 31 (addsd xmm0 xmm7 (mulsd xmm5 xmm1 s))))))))))))))))).trace) :=
  ⟨fun _ => rfl, rfl⟩

theorem pow_L_2TAG_PACKET_5_0_2_1_sem (cpu : Cpu) (s : Machine) :
    (∀ l, (L_2TAG_PACKET_5_0_2_1 cpu s).get l = (cmpl_ri eax 0 (bind Label.L_2TAG_PACKET_5_0_2 s)).get l) ∧
    ((L_2TAG_PACKET_5_0_2_1 cpu s).trace = (cmpl_ri eax 0 (bind Label.L_2TAG_PACKET_5_0_2 s)).trace) :=
  ⟨fun _ => rfl, rfl⟩

theorem pow_L_2TAG_PACKET_5_0_2_2_sem (cpu : Cpu) (s : Machine) :
    (∀ l, (L_2TAG_PACKET_5_0_2_2 cpu s).get l = (cmpl_ri eax 752 s).get l) ∧
    ((L_2TAG_PACKET_5_0_2_2 cpu s).trace = (cmpl_ri eax 752 s).trace) :=
  ⟨fun _ => rfl, rfl⟩

theorem pow_L_2TAG_PACKET_5_0_2_3_sem (cpu : Cpu) (s : Machine) :
    (∀ l, (L_2TAG_PACKET_5_0_2_3 cpu s).get l = (cmpl_ri edx 16529 (andl_ri edx 32767 (movq_xe xmm1 Tbl.e_coeff 32 (movdl_xr xmm6 ecx (xorl_rr ecx tmp1 (shll_ri ecx 20 (subl_rr eax ecx (sarl ecx 1 (movl_rr eax ecx (sarl ecx 8 (addsd xmm2 xmm4 (movdqu_xi xmm5 tmp4 eax 8 0 (addl_rr eax eax (andl_ri eax 255 (movl_rr ecx eax (pextrw edx xmm6 3 (subsd xmm4 xmm6 (movdqu_xe xmm3 Tbl.e_coeff 16 (movdqu_xe xmm7 Tbl.e_coeff 0 (addsd xmm2 xmm1 (lea tmp4 Tbl.T_exp (subsd xmm6 xmm7 (movdl_rx eax xmm6 (addsd xmm6 xmm4 (mulsd xmm1 xmm5 (movdqu_xx xmm7 xmm6 (mulsd xmm2 xmm0 (addsd xmm0 xmm7 (mulsd xmm4 xmm5 (subsd xmm1 xmm4 (addsd xmm0 xmm3 (subsd xmm7 xmm5 (pand xmm4 xmm1 (movdqu_xx xmm2 xmm1 (pand xmm5 xmm2 (movdqu_xx xmm7 xmm5 (subsd xmm3 xmm5 (movdqu_xx xmm4 xmm2 (addsd xmm5 xmm0 (movdqu_xx xmm3 xmm5 (addsd xmm0 xmm3 (pshufd xmm0 xmm3 238 (pinsrw xmm6 eax 3 (movl_ri eax 17080 (xorpd xmm6 xmm6 (addpd xmm3 xmm0 (movq_xe xmm2 Tbl.HALFMASK 0 (addsd xmm0 xmm7 s)))))))))))))))))))))))))))))))))))))))))))))))).get l) ∧
    ((L_2TAG_PACKET_5_0_2_3 cpu s).trace = (cmpl_ri edx 16529 (andl_ri edx 32767 (movq_xe xmm1 Tbl.e_coeff 32 (movdl_xr xmm6 ecx (xorl_rr ecx tmp1 (shll_ri ecx 20 (subl_rr eax ecx (sarl ecx 1 (movl_rr eax ecx (sarl ecx 8 (addsd xmm2 xmm4 (movdqu_xi xmm5 tmp4 eax 8 0 (addl_rr eax eax (andl_ri eax 255 (movl_rr ecx eax (pextrw edx xmm6 3 (subsd xmm4 xmm6 (movdqu_xe xmm3 Tbl.e_coeff 16 (movdqu_xe xmm7 Tbl.e_coeff 0 (addsd xmm2 xmm1 (lea tmp4 Tbl.T_exp (subsd xmm6 xmm7 (movdl_rx eax xmm6 (addsd xmm6 xmm4 (mulsd xmm1 xmm5 (movdqu_xx xmm7 xmm6 (mulsd xmm2 xmm0 (addsd xmm0 xmm7 (mulsd xmm4 xmm5 (subsd xmm1 xmm4 (addsd xmm0 xmm3 (subsd xmm7 xmm5 (pand xmm4 xmm1 (movdqu_xx xmm2 xmm1 (pand xmm5 xmm2 (movdqu_xx xmm7 xmm5 (subsd xmm3 xmm5 (movdqu_xx xmm4 xmm2 (addsd xmm5 xmm0 (movdqu_xx xmm3 xmm5 (addsd xmm0 xmm3 (pshufd xmm0 xmm3 238 (pinsrw xmm6 eax 3 (movl_ri eax 17080 (xorpd xmm6 xmm6 (addpd xmm3 xmm0 (movq_xe xmm2 Tbl.HALFMASK 0 (addsd xmm0 xmm7 s)))))))))))))))))))))))))))))))))))))))))))))))).trace) :=
  ⟨fun _ => rfl, rfl⟩

theorem pow_L_2TAG_PACKET_5_0_2_4_sem (cpu : Cpu) (s : Machine) :
    (∀ l, (L_2TAG_PACKET_5_0_2_4 cpu s).get l = (andl_ri eax 32752 (pextrw eax xmm0 3 (mulsd xmm0 xmm4 (addsd xmm0 xmm5 (movdqu_xx xmm1 xmm0 (addsd xmm0 xmm3 (addsd xmm0 xmm1 (pinsrw xmm4 eax 3 (addl_ri eax 16368 (xorpd xmm4 xmm4 (shll_ri eax 4 (mulsd xmm3 xmm5 (mulsd xmm0 xmm5 (pshufd xmm3 xmm0 238 (addsd xmm1 xmm6 (mulpd xmm0 xmm3 (pshufd xmm6 xmm5 238 (mulsd xmm1 xmm5 (addpd xmm3 xmm7 (paddd xmm5 xmm6 (mulsd xmm0 xmm0 (mulsd xmm1 xmm2 (pshufd xmm6 xmm6 17 (mulpd xmm7 xmm4 (mulpd xmm0 xmm0 (pshufd xmm4 xmm2 68 (pshufd xmm0 xmm2 68 s))))))))))))))))))))))))))).get l) ∧
    ((L_2TAG_PACKET_5_0_2_4 cpu s).trace = (andl_ri eax 32752 (pextrw eax xmm0 3 (mulsd xmm0 xmm4 (addsd xmm0 xmm5 (movdqu_xx xmm1 xmm0 (addsd xmm0 xmm3 (addsd xmm0 xmm1 (pinsrw xmm4 eax 3 (addl_ri eax 16368 (xorpd xmm4 xmm4 (shll_ri eax 4 (mulsd xmm3 xmm5 (mulsd xmm0 xmm5 (pshufd xmm3 xmm0 238 (addsd xmm1 xmm6 (mulpd xmm0 xmm3 (pshufd xmm6 xmm5 238 (mulsd xmm1 xmm5 (addpd xmm3 xmm7 (paddd xmm5 xmm6 (mulsd xmm0 xmm0 (mulsd xmm1 xmm2 (pshufd xmm6 xmm6 17 (mulpd xmm7 xmm4 (mulpd xmm0 xmm0 (pshufd xmm4 xmm2 68 (pshufd xmm0 xmm2 68 s))))))))))))))))))))))))))).trace) :=
  ⟨fun _ => rfl, rfl⟩

theorem pow_L_2TAG_PACKET_5_0_2_5_sem (cpu : Cpu) (s : Machine) :
    (∀ l, (L_2TAG_PACKET_5_0_2_5 cpu s).get l = (cmpl_ri eax 32752 s).get l) ∧
    ((L_2TAG_PACKET_5_0_2_5 cpu s).trace = (cmpl_ri eax 32752 s).trace) :=
  ⟨fun _ => rfl, rfl⟩

theorem pow_L_2TAG_PACKET_5_0_2_6_sem (cpu : Cpu) (s : Machine) :
    (∀ l, (L_2TAG_PACKET_5_0_2_6 cpu s).get l = s.get l) ∧
    ((L_2TAG_PACKET_5_0_2_6 cpu s).trace = s.trace) :=
  ⟨fun _ => rfl, rfl⟩

theorem pow_L_2TAG_PACKET_4_0_2_1_sem (cpu : Cpu) (s : Machine) :
    (∀ l, (L_2TAG_PACKET_4_0_2_1 cpu s).get l = (cmpl_ri eax 624 (mulpd xmm3 xmm6 (addl_rr eax ecx (andl_ri ecx 32752 (subl_ri eax 15872 (shll_ri eax 4 (mulpd xmm0 xmm2 (pshufd xmm3 xmm3 68 (mulpd xmm6 xmm2 (movq_xe xmm4 Tbl.HIGHMASK_Y 0 (pshufd xmm7 xmm5 238 (movw_rm ecx 22 (movq_xm xmm1 16 (addpd xmm0 xmm4 (mulsd xmm3 xmm3 (addpd xmm6 xmm1 (mulsd xmm2 xmm3 (addsd xmm5 xmm7 (mulpd xmm4 xmm2 (mulpd xmm1 xmm2 (mulsd xmm3 xmm3 (pshufd xmm2 xmm3 68 (movdqu_xe xmm0 Tbl.coeff_pow 48 (addpd_xi xmm5 tmp4 edx 1 (2 ^ 64 - 3648) (shrl edx 10 (andl_ri edx 16760832 (addsd xmm3 xmm5 (movdqu_xe xmm6 Tbl.coeff_pow 32 (unpcklpd xmm5 xmm3 (bsrl eax eax (addl_ri eax 1 (xorl_rr eax ecx (addl_rr ecx eax (sarl eax 31 (movl_rr ecx eax (movdqu_xe xmm4 Tbl.coeff_pow 16 (subsd xmm5 xmm2 (lea tmp4 Tbl.L_tbl_pow (movdqu_xe xmm1 Tbl.coeff_pow 0 (mulsd xmm3 xmm0 (bind Label.L_2TAG_PACKET_4_0_2 s))))))))))))))))))))))))))))))))))))))))).get l) ∧
    ((L_2TAG_PACKET_4_0_2_1 cpu s).trace = (cmpl_ri eax 624 (mulpd xmm3 xmm6 (addl_rr eax ecx (andl_ri ecx 32752 (subl_ri eax 15872 (shll_ri eax 4 (mulpd xmm0 xmm2 (pshufd xmm3 xmm3 68 (mulpd xmm6 xmm2 (movq_xe xmm4 Tbl.HIGHMASK_Y 0 (pshufd xmm7 xmm5 238 (movw_rm ecx 22 (movq_xm xmm1 16 (addpd xmm0 xmm4 (mulsd xmm3 xmm3 (addpd xmm6 xmm1 (mulsd xmm2 xmm3 (addsd xmm5 xmm7 (mulpd xmm4 xmm2 (mulpd xmm1 xmm2 (mulsd xmm3 xmm3 (pshufd xmm2 xmm3 68 (movdqu_xe xmm0 Tbl.coeff_pow 48 (addpd_xi xmm5 tmp4 edx 1 (2 ^ 64 - 3648) (shrl edx 10 (andl_ri edx 16760832 (addsd xmm3 xmm5 (movdqu_xe xmm6 Tbl.coeff_pow 32 (unpcklpd xmm5 xmm3 (bsrl eax eax (addl_ri eax 1 (xorl_rr eax ecx (addl_rr ecx eax (sarl eax 31 (movl_rr ecx eax (movdqu_xe xmm4 Tbl.coeff_pow 16 (subsd xmm5 xmm2 (lea tmp4 Tbl.L_tbl_pow (movdqu_xe xmm1 Tbl.coeff_pow 0 (mulsd xmm3 xmm0 (bind Label.L_2TAG_PACKET_4_0_2 s))))))))))))))))))))))))))))))))))))))))).trace) :=
  ⟨fun _ => rfl, rfl⟩

theorem pow_L_2TAG_PACKET_4_0_2_2_sem (cpu : Cpu) (s : Machine) :
    (∀ l, (L_2TAG_PACKET_4_0_2_2 cpu s).get l = (addsd xmm0 xmm5 (addsd xmm0 xmm3 (addsd xmm0 xmm1 (mulsd xmm3 xmm5 (mulsd xmm0 xmm5 (pshufd xmm3 xmm0 238 (mulpd xmm0 xmm3 (addsd xmm1 xmm6 (addpd xmm3 xmm7 (mulsd xmm0 xmm0 (pshufd xmm6 xmm5 238 (mulsd xmm1 xmm5 (paddd xmm5 xmm6 (mulpd xmm7 xmm4 (mulpd xmm0 xmm0 (pshufd xmm6 xmm6 17 (mulsd xmm1 xmm2 (pshufd xmm4 xmm2 68 (pshufd xmm0 xmm2 68 (movdq_xr xmm1 tmp2 (mov64 tmp2 0x3fe62e42fefa39ef (addsd xmm2 xmm4 (movdq_xr xmm6 ecx (andl_ri ecx 0xFFF00000 (xorl_rr ecx tmp1 (shll_ri ecx 12 (movdqu_xe xmm3 Tbl.e_coeff 16 (movdqu_xe xmm7 Tbl.e_coeff 0 (mulsd xmm2 xmm0 (addsd xmm4 xmm1 (movdqu_xi xmm5 tmp4 edx 8 0 (addl_rr edx edx (andl_ri edx 255 (movl_rr ecx edx (addsd xmm0 xmm3 (subsd xmm4 xmm6 (pshufd xmm0 xmm3 238 (subsd xmm6 xmm7 (movdl_rx edx xmm6 (addpd xmm3 xmm0 (lea tmp4 Tbl.T_exp (addsd xmm6 xmm4 (movdqu_xx xmm7 xmm6 (mulsd xmm1 xmm5 (addsd xmm0 xmm7 (mulsd xmm4 xmm5 (subsd xmm1 xmm4 (pand xmm4 xmm1 (movdqu_xx xmm2 xmm1 (pinsrw xmm6 edx 3 (movl_ri edx 17080 (xorpd xmm6 xmm6 s)))))))))))))))))))))))))))))))))))))))))))))))))))).get l) ∧
    ((L_2TAG_PACKET_4_0_2_2 cpu s).trace = (addsd xmm0 xmm5 (addsd xmm0 xmm3 (addsd xmm0 xmm1 (mulsd xmm3 xmm5 (mulsd xmm0 xmm5 (pshufd xmm3 xmm0 238 (mulpd xmm0 xmm3 (addsd xmm1 xmm6 (addpd xmm3 xmm7 (mulsd xmm0 xmm0 (pshufd xmm6 xmm5 238 (mulsd xmm1 xmm5 (paddd xmm5 xmm6 (mulpd xmm7 xmm4 (mulpd xmm0 xmm0 (pshufd xmm6 xmm6 17 (mulsd xmm1 xmm2 (pshufd xmm4 xmm2 68 (pshufd xmm0 xmm2 68 (movdq_xr xmm1 tmp2 (mov64 tmp2 0x3fe62e42fefa39ef (addsd xmm2 xmm4 (movdq_xr xmm6 ecx (andl_ri ecx 0xFFF00000 (xorl_rr ecx tmp1 (shll_ri ecx 12 (movdqu_xe xmm3 Tbl.e_coeff 16 (movdqu_xe xmm7 Tbl.e_coeff 0 (mulsd xmm2 xmm0 (addsd xmm4 xmm1 (movdqu_xi xmm5 tmp4 edx 8 0 (addl_rr edx edx (andl_ri edx 255 (movl_rr ecx edx (addsd xmm0 xmm3 (subsd xmm4 xmm6 (pshufd xmm0 xmm3 238 (subsd xmm6 xmm7 (movdl_rx edx xmm6 (addpd xmm3 xmm0 (lea tmp4 Tbl.T_exp (addsd xmm6 xmm4 (movdqu_xx xmm7 xmm6 (mulsd xmm1 xmm5 (addsd xmm0 xmm7 (mulsd xmm4 xmm5 (subsd xmm1 xmm4 (pand xmm4 xmm1 (movdqu_xx xmm2 xmm1 (pinsrw xmm6 edx 3 (movl_ri edx 17080 (xorpd xmm6 xmm6 s)))))))))))))))))))))))))))))))))))))))))))))))))))).trace) :=
  ⟨fun _ => rfl, rfl⟩

theorem pow_L_2TAG_PACKET_8_0_2_1_sem (cpu : Cpu) (s : Machine) :
    (∀ l, (L_2TAG_PACKET_8_0_2_1 cpu s).get l = (cmpl_ri edx 0 (orl_rr edx ecx (movdl_rx ecx xmm3 (psrlq xmm3 32 (movdl_rx edx xmm3 (movq_xm xmm3 8 (movq_xm xmm0 8 (bind Label.L_2TAG_PACKET_8_0_2 s)))))))).get l) ∧
    ((L_2TAG_PACKET_8_0_2_1 cpu s).trace = (cmpl_ri edx 0 (orl_rr edx ecx (movdl_rx ecx xmm3 (psrlq xmm3 32 (movdl_rx edx xmm3 (movq_xm xmm3 8 (movq_xm xmm0 8 (bind Label.L_2TAG_PACKET_8_0_2 s)))))))).trace) :=
  ⟨fun _ => rfl, rfl⟩

theorem pow_L_2TAG_PACKET_8_0_2_2_sem (cpu : Cpu) (s : Machine) :
    (∀ l, (L_2TAG_PACKET_8_0_2_2 cpu s).get l = (mulpd xmm5 xmm0 (cvtsi2sdl xmm7 eax (sarl eax 4 (subl_ri eax 18416 (andl_ri eax 32752 (subsd xmm3 xmm5 (pand xmm0 xmm6 (movl_ri tmp1 0 (pand xmm5 xmm3 (psllq xmm0 29 (movdl_rx edx xmm0 (psllq xmm5 32 (paddd xmm0 xmm4 (por xmm3 xmm1 (movdl_xr xmm5 edx (movl_ri edx 0xFFFFFC00 (mulss xmm0 xmm7 (psrlq xmm3 12 (movdqu_xe xmm6 Tbl.HIGHSIGMASK 0 (psllq xmm3 12 (rcpps cpu.rcp xmm0 xmm0 (psrld xmm0 2 (movq_xe xmm2 Tbl.LOG2_E 0 (psrlq xmm0 27 (movl_ri ecx 18416 (por xmm0 xmm2 (pextrw eax xmm0 3 (movdqu_xx xmm3 xmm0 (pinsrw xmm2 eax 3 (movl_ri eax 16368 (xorpd xmm2 xmm2 (mulsd xmm0 xmm3 (pinsrw xmm3 eax 3 (movl_ri eax 18416 (xorpd xmm3 xmm3 s))))))))))))))))))))))))))))))))))).get l) ∧
    ((L_2TAG_PACKET_8_0_2_2 cpu s).trace = (mulpd xmm5 xmm0 (cvtsi2sdl xmm7 eax (sarl eax 4 (subl_ri eax 18416 (andl_ri eax 32752 (subsd xmm3 xmm5 (pand xmm0 xmm6 (movl_ri tmp1 0 (pand xmm5 xmm3 (psllq xmm0 29 (movdl_rx edx xmm0 (psllq xmm5 32 (paddd xmm0 xmm4 (por xmm3 xmm1 (movdl_xr xmm5 edx (movl_ri edx 0xFFFFFC00 (mulss xmm0 xmm7 (psrlq xmm3 12 (movdqu_xe xmm6 Tbl.HIGHSIGMASK 0 (psllq xmm3 12 (rcpps cpu.rcp xmm0 xmm0 (psrld xmm0 2 (movq_xe xmm2 Tbl.LOG2_E 0 (psrlq xmm0 27 (movl_ri ecx 18416 (por xmm0 xmm2 (pextrw eax xmm0 3 (movdqu_xx xmm3 xmm0 (pinsrw xmm2 eax 3 (movl_ri eax 16368 (xorpd xmm2 xmm2 (mulsd xmm0 xmm3 (pinsrw xmm3 eax 3 (movl_ri eax 18416 (xorpd xmm3 xmm3 s))))))))))))))))))))))))))))))))))).trace) :=
  ⟨fun _ => rfl, rfl⟩

theorem pow_L_2TAG_PACKET_51_0_2_1_sem (cpu : Cpu) (s : Machine) :
    (∀ l, (L_2TAG_PACKET_51_0_2_1 cpu s).get l = (testl_ri eax 32768 (xorl_rr eax ecx (pextrw ecx xmm2 3 (pextrw eax xmm1 3 (bind Label.L_2TAG_PACKET_51_0_2 s))))).get l) ∧
    ((L_2TAG_PACKET_51_0_2_1 cpu s).trace = (testl_ri eax 32768 (xorl_rr eax ecx (pextrw ecx xmm2 3 (pextrw eax xmm1 3 (bind Label.L_2TAG_PACKET_51_0_2 s))))).trace) :=
  ⟨fun _ => rfl, rfl⟩

theorem pow_L_2TAG_PACKET_51_0_2_2_sem (cpu : Cpu) (s : Machine) :
    (∀ l, (L_2TAG_PACKET_51_0_2_2 cpu s).get l = s.get l) ∧
    ((L_2TAG_PACKET_51_0_2_2 cpu s).trace = s.trace) :=
  ⟨fun _ => rfl, rfl⟩

theorem pow_L_2TAG_PACKET_52_0_2_1_sem (cpu : Cpu) (s : Machine) :
    (∀ l, (L_2TAG_PACKET_52_0_2_1 cpu s).get l = (bind Label.L_2TAG_PACKET_52_0_2 s).get l) ∧
    ((L_2TAG_PACKET_52_0_2_1 cpu s).trace = (bind Label.L_2TAG_PACKET_52_0_2 s).trace) :=
  ⟨fun _ => rfl, rfl⟩

theorem pow_L_2TAG_PACKET_3_0_2_1_sem (cpu : Cpu) (s : Machine) :
    (∀ l, (L_2TAG_PACKET_3_0_2_1 cpu s).get l = (mulpd xmm5 xmm0 (cvtsi2sdl xmm7 eax (sarl eax 4 (subl_ri eax 1 (pand xmm0 xmm6 (subsd xmm3 xmm5 (bind Label.L_2TAG_PACKET_3_0_2 s))))))).get l) ∧
    ((L_2TAG_PACKET_3_0_2_1 cpu s).trace = (mulpd xmm5 xmm0 (cvtsi2sdl xmm7 eax (sarl eax 4 (subl_ri eax 1 (pand xmm0 xmm6 (subsd xmm3 xmm5 (bind Label.L_2TAG_PACKET_3_0_2 s))))))).trace) :=
  ⟨fun _ => rfl, rfl⟩

theorem pow_L_2TAG_PACKET_2_0_2_1_sem (cpu : Cpu) (s : Machine) :
    (∀ l, (L_2TAG_PACKET_2_0_2_1 cpu s).get l = (cmpl_ri ecx 16560 (andl_ri ecx 32752 (pand xmm5 xmm1 (paddq xmm1 xmm3 (psllq xmm0 29 (movdl_rx edx xmm0 (paddd xmm0 xmm4 (xorpd xmm7 xmm7 (movdl_xr xmm1 edx (movl_ri edx 0x80000000 (movw_rm ecx 22 (bind Label.L_2TAG_PACKET_2_0_2 s)))))))))))).get l) ∧
    ((L_2TAG_PACKET_2_0_2_1 cpu s).trace = (cmpl_ri ecx 16560 (andl_ri ecx 32752 (pand xmm5 xmm1 (paddq xmm1 xmm3 (psllq xmm0 29 (movdl_rx edx xmm0 (paddd xmm0 xmm4 (xorpd xmm7 xmm7 (movdl_xr xmm1 edx (movl_ri edx 0x80000000 (movw_rm ecx 22 (bind Label.L_2TAG_PACKET_2_0_2 s)))))))))))).trace) :=
  ⟨fun _ => rfl, rfl⟩

theorem pow_L_2TAG_PACKET_2_0_2_2_sem (cpu : Cpu) (s : Machine) :
    (∀ l, (L_2TAG_PACKET_2_0_2_2 cpu s).get l = (cmpl_ri ecx 32752 (andl_ri ecx 32752 (subl_ri eax 16368 (andl_ri eax 32752 (addpd xmm5 xmm0 (subsd xmm7 xmm2 (addsd xmm5 xmm6 (pand xmm2 xmm7 (movq_xe xmm4 Tbl.HIGHMASK_Y 8 (mulpd xmm0 xmm3 (mulpd xmm5 xmm4 (pextrw eax xmm7 3 (mulpd xmm0 xmm4 (movw_rm ecx 22 (movq_xm xmm1 16 (mulpd xmm3 xmm3 (movq_xe xmm2 Tbl.HIGHMASK_LOG_X 0 (mulsd xmm4 xmm3 (addpd xmm5 xmm2 (addpd xmm0 xmm1 (mulpd xmm3 xmm3 (pshufd xmm4 xmm3 68 (mulpd xmm2 xmm3 (mulpd xmm0 xmm3 (movdqu_xe xmm1 Tbl.coeff_pow 32 (addsd xmm6 xmm1 (addsd xmm6 xmm4 (pshufd xmm3 xmm3 68 (movdqu_xe xmm5 Tbl.coeff_pow 80 (addsd xmm1 xmm5 (subsd xmm1 xmm7 (addsd xmm7 xmm5 (movapd xmm1 xmm7 (pshufd xmm5 xmm7 238 (addsd xmm4 xmm1 (addsd xmm6 xmm5 (subsd xmm4 xmm7 (movdqu_xe xmm2 Tbl.coeff_pow 64 (addsd xmm7 xmm1 (addsd xmm5 xmm2 (movdqu_xx xmm4 xmm7 (addsd xmm6 xmm4 (subsd xmm5 xmm7 (movdqu_xe xmm0 Tbl.coeff_pow 0 (addsd xmm4 xmm0 (addsd xmm7 xmm2 (movdqu_xx xmm5 xmm7 (pshufd xmm2 xmm5 238 (addsd xmm4 xmm2 (subsd xmm2 xmm7 (addsd xmm0 xmm5 (addsd xmm7 xmm4 (movdqu_xx xmm2 xmm7 (subsd xmm0 xmm7 (mulsd xmm6 xmm2 (addsd xmm7 xmm5 (addsd xmm2 xmm3 (movdqu_xx xmm0 xmm7 (addsd xmm5 xmm0 (mulsd xmm4 xmm5 (movdqu_xx xmm2 xmm5 (mulsd xmm1 xmm2 (mulsd xmm6 xmm2 (mulsd xmm0 xmm5 (mulsd xmm4 xmm5 (addpd_xi xmm7 tmp4 edx 1 (2 ^ 64 - 3648) (shrl edx 10 (andl_ri edx 16760832 (movq_xe xmm0 Tbl.coeff_h 8 (addsd xmm3 xmm5 (unpcklpd xmm5 xmm3 (pshufd xmm2 xmm3 68 (movq_xe xmm1 Tbl.coeff_h 8 (subsd xmm5 xmm2 (movq_xe xmm6 Tbl.coeff_h 0 (mulsd xmm3 xmm0 (movq_xe xmm4 Tbl.coeff_h 0 (lea tmp4 Tbl.L_tbl_pow (mulpd xmm5 xmm0 (cvtsi2sdl xmm7 eax (subl_ri eax 1022 (shrl eax 4 (addl_ri eax 16351 (subsd xmm3 xmm5 (pand xmm0 xmm6 s))))))))))))))))))))))))))))))))))))))))))))))))))))))))))))))))))))))))))))))))))))).get l) ∧
    ((L_2TAG_PACKET_2_0_2_2 cpu s).trace = (cmpl_ri ecx 32752 (andl_ri ecx 32752 (subl_ri eax 16368 (andl_ri eax 32752 (addpd xmm5 xmm0 (subsd xmm7 xmm2 (addsd xmm5 xmm6 (pand xmm2 xmm7 (movq_xe xmm4 Tbl.HIGHMASK_Y 8 (mulpd xmm0 xmm3 (mulpd xmm5 xmm4 (pextrw eax xmm7 3 (mulpd xmm0 xmm4 (movw_rm ecx 22 (movq_xm xmm1 16 (mulpd xmm3 xmm3 (movq_xe xmm2 Tbl.HIGHMASK_LOG_X 0 (mulsd xmm4 xmm3 (addpd xmm5 xmm2 (addpd xmm0 xmm1 (mulpd xmm3 xmm3 (pshufd xmm4 xmm3 68 (mulpd xmm2 xmm3 (mulpd xmm0 xmm3 (movdqu_xe xmm1 Tbl.coeff_pow 32 (addsd xmm6 xmm1 (addsd xmm6 xmm4 (pshufd xmm3 xmm3 68 (movdqu_xe xmm5 Tbl.coeff_pow 80 (addsd xmm1 xmm5 (subsd xmm1 xmm7 (addsd xmm7 xmm5 (movapd xmm1 xmm7 (pshufd xmm5 xmm7 238 (addsd xmm4 xmm1 (addsd xmm6 xmm5 (subsd xmm4 xmm7 (movdqu_xe xmm2 Tbl.coeff_pow 64 (addsd xmm7 xmm1 (addsd xmm5 xmm2 (movdqu_xx xmm4 xmm7 (addsd xmm6 xmm4 (subsd xmm5 xmm7 (movdqu_xe xmm0 Tbl.coeff_pow 0 (addsd xmm4 xmm0 (addsd xmm7 xmm2 (movdqu_xx xmm5 xmm7 (pshufd xmm2 xmm5 238 (addsd xmm4 xmm2 (subsd xmm2 xmm7 (addsd xmm0 xmm5 (addsd xmm7 xmm4 (movdqu_xx xmm2 xmm7 (subsd xmm0 xmm7 (mulsd xmm6 xmm2 (addsd xmm7 xmm5 (addsd xmm2 xmm3 (movdqu_xx xmm0 xmm7 (addsd xmm5 xmm0 (mulsd xmm4 xmm5 (movdqu_xx xmm2 xmm5 (mulsd xmm1 xmm2 (mulsd xmm6 xmm2 (mulsd xmm0 xmm5 (mulsd xmm4 xmm5 (addpd_xi xmm7 tmp4 edx 1 (2 ^ 64 - 3648) (shrl edx 10 (andl_ri edx 16760832 (movq_xe xmm0 Tbl.coeff_h 8 (addsd xmm3 xmm5 (unpcklpd xmm5 xmm3 (pshufd xmm2 xmm3 68 (movq_xe xmm1 Tbl.coeff_h 8 (subsd xmm5 xmm2 (movq_xe xmm6 Tbl.coeff_h 0 (mulsd xmm3 xmm0 (movq_xe xmm4 Tbl.coeff_h 0 (lea tmp4 Tbl.L_tbl_pow (mulpd xmm5 xmm0 (cvtsi2sdl xmm7 eax (subl_ri eax 1022 (shrl eax 4 (addl_ri eax 16351 (subsd xmm3 xmm5 (pand xmm0 xmm6 s))))))))))))))))))))))))))))))))))))))))))))))))))))))))))))))))))))))))))))))))))))).trace) :=
  ⟨fun _ => rfl, rfl⟩

theorem pow_L_2TAG_PACKET_2_0_2_3_sem (cpu : Cpu) (s : Machine) :
    (∀ l, (L_2TAG_PACKET_2_0_2_3 cpu s).get l = (cmpl_ri ecx 16576 (addl_rr ecx eax s)).get l) ∧
    ((L_2TAG_PACKET_2_0_2_3 cpu s).trace = (cmpl_ri ecx 16576 (addl_rr ecx eax s)).trace) :=
  ⟨fun _ => rfl, rfl⟩

theorem pow_L_2TAG_PACKET_2_0_2_4_sem (cpu : Cpu) (s : Machine) :
    (∀ l, (L_2TAG_PACKET_2_0_2_4 cpu s).get l = (cmpl_ri edx 16529 (andl_ri edx 32767 (mulsd xmm2 xmm4 (pshufd xmm6 xmm6 17 (mulpd xmm7 xmm1 (mulpd xmm0 xmm0 (pshufd xmm1 xmm4 68 (pshufd xmm0 xmm4 68 (movdl_xr xmm6 ecx (shll_ri ecx 20 (subl_rr eax ecx (shrl ecx 1 (movl_rr eax ecx (shrl ecx 8 (pextrw edx xmm6 3 (addsd xmm4 xmm1 (movdqu_xi xmm5 tmp4 edx 8 0 (addl_rr edx edx (andl_ri edx 255 (movl_rr ecx edx (subsd xmm4 xmm6 (movq_xe xmm2 Tbl.e_coeff 32 (movdqu_xe xmm3 Tbl.e_coeff 16 (lea tmp4 Tbl.T_exp (subsd xmm6 xmm5 (movdl_rx edx xmm6 (movdqu_xe xmm7 Tbl.e_coeff 0 (addsd xmm1 xmm3 (addsd xmm6 xmm4 (mulsd xmm3 xmm7 (movdqu_xx xmm5 xmm6 (mulsd xmm1 xmm2 (mulsd xmm4 xmm2 (addsd xmm7 xmm5 (pinsrw xmm6 edx 3 (movl_ri edx 17080 (xorpd xmm6 xmm6 (subsd xmm1 xmm4 (addsd xmm5 xmm0 (movdqu_xx xmm3 xmm1 (pand xmm4 xmm1 (pshufd xmm0 xmm5 238 s)))))))))))))))))))))))))))))))))))))))))).get l) ∧
    ((L_2TAG_PACKET_2_0_2_4 cpu s).trace = (cmpl_ri edx 16529 (andl_ri edx 32767 (mulsd xmm2 xmm4 (pshufd xmm6 xmm6 17 (mulpd xmm7 xmm1 (mulpd xmm0 xmm0 (pshufd xmm1 xmm4 68 (pshufd xmm0 xmm4 68 (movdl_xr xmm6 ecx (shll_ri ecx 20 (subl_rr eax ecx (shrl ecx 1 (movl_rr eax ecx (shrl ecx 8 (pextrw edx xmm6 3 (addsd xmm4 xmm1 (movdqu_xi xmm5 tmp4 edx 8 0 (addl_rr edx edx (andl_ri edx 255 (movl_rr ecx edx (subsd xmm4 xmm6 (movq_xe xmm2 Tbl.e_coeff 32 (movdqu_xe xmm3 Tbl.e_coeff 16 (lea tmp4 Tbl.T_exp (subsd xmm6 xmm5 (movdl_rx edx xmm6 (movdqu_xe xmm7 Tbl.e_coeff 0 (addsd xmm1 xmm3 (addsd xmm6 xmm4 (mulsd xmm3 xmm7 (movdqu_xx xmm5 xmm6 (mulsd xmm1 xmm2 (mulsd xmm4 xmm2 (addsd xmm7 xmm5 (pinsrw xmm6 edx 3 (movl_ri edx 17080 (xorpd xmm6 xmm6 (subsd xmm1 xmm4 (addsd xmm5 xmm0 (movdqu_xx xmm3 xmm1 (pand xmm4 xmm1 (pshufd xmm0 xmm5 238 s)))))))))))))))))))))))))))))))))))))))))).trace) :=
  ⟨fun _ => rfl, rfl⟩

theorem pow_L_2TAG_PACKET_2_0_2_5_sem (cpu : Cpu) (s : Machine) :
    (∀ l, (L_2TAG_PACKET_2_0_2_5 cpu s).get l = (andl_ri eax 32752 (pextrw eax xmm0 3 (mulsd xmm0 xmm4 (addsd xmm0 xmm5 (movdqu_xx xmm1 xmm0 (addsd xmm0 xmm3 (psllq xmm4 32 (addsd xmm0 xmm2 (mulsd xmm3 xmm5 (mulsd xmm0 xmm5 (movdl_xr xmm4 eax (orl_rr eax tmp1 (shll_ri eax 20 (addl_ri eax 1023 (pshufd xmm3 xmm0 238 (addsd xmm2 xmm6 (mulpd xmm0 xmm3 (pshufd xmm6 xmm5 238 (mulsd xmm2 xmm5 (addpd xmm3 xmm7 (paddd xmm5 xmm6 (mulsd xmm0 xmm0 s)))))))))))))))))))))).get l) ∧
    ((L_2TAG_PACKET_2_0_2_5 cpu s).trace = (andl_ri eax 32752 (pextrw eax xmm0 3 (mulsd xmm0 xmm4 (addsd xmm0 xmm5 (movdqu_xx xmm1 xmm0 (addsd xmm0 xmm3 (psllq xmm4 32 (addsd xmm0 xmm2 (mulsd xmm3 xmm5 (mulsd xmm0 xmm5 (movdl_xr xmm4 eax (orl_rr eax tmp1 (shll_ri eax 20 (addl_ri eax 1023 (pshufd xmm3 xmm0 238 (addsd xmm2 xmm6 (mulpd xmm0 xmm3 (pshufd xmm6 xmm5 238 (mulsd xmm2 xmm5 (addpd xmm3 xmm7 (paddd xmm5 xmm6 (mulsd xmm0 xmm0 s)))))))))))))))))))))).trace) :=
  ⟨fun _ => rfl, rfl⟩

theorem pow_L_2TAG_PACKET_2_0_2_6_sem (cpu : Cpu) (s : Machine) :
    (∀ l, (L_2TAG_PACKET_2_0_2_6 cpu s).get l = (cmpl_ri eax 32752 s).get l) ∧
    ((L_2TAG_PACKET_2_0_2_6 cpu s).trace = (cmpl_ri eax 32752 s).trace) :=
  ⟨fun _ => rfl, rfl⟩

theorem pow_L_2TAG_PACKET_2_0_2_7_sem (cpu : Cpu) (s : Machine) :
    (∀ l, (L_2TAG_PACKET_2_0_2_7 cpu s).get l = s.get l) ∧
    ((L_2TAG_PACKET_2_0_2_7 cpu s).trace = s.trace) :=
  ⟨fun _ => rfl, rfl⟩

theorem pow_L_2TAG_PACKET_1_0_2_1_sem (cpu : Cpu) (s : Machine) :
    (∀ l, (L_2TAG_PACKET_1_0_2_1 cpu s).get l = (cmpl_ri eax 1 (subl_ri eax 16351 (por xmm3 xmm1 (movdq_xr xmm5 edx (shlq edx 32 (shll_cl edx (subl_ri ecx 4 (movl_ri edx 0xFFFFFFFF (mulss xmm0 xmm7 (bind Label.L_2TAG_PACKET_1_0_2 s)))))))))).get l) ∧
    ((L_2TAG_PACKET_1_0_2_1 cpu s).trace = (cmpl_ri eax 1 (subl_ri eax 16351 (por xmm3 xmm1 (movdq_xr xmm5 edx (shlq edx 32 (shll_cl edx (subl_ri ecx 4 (movl_ri edx 0xFFFFFFFF (mulss xmm0 xmm7 (bind Label.L_2TAG_PACKET_1_0_2 s)))))))))).trace) :=
  ⟨fun _ => rfl, rfl⟩

theorem pow_L_2TAG_PACKET_1_0_2_2_sem (cpu : Cpu) (s : Machine) :
    (∀ l, (L_2TAG_PACKET_1_0_2_2 cpu s).get l = (psllq xmm0 29 (movdl_rx edx xmm0 (pand xmm5 xmm3 (paddd xmm0 xmm4 s)))).get l) ∧
    ((L_2TAG_PACKET_1_0_2_2 cpu s).trace = (psllq xmm0 29 (movdl_rx edx xmm0 (pand xmm5 xmm3 (paddd xmm0 xmm4 s)))).trace) :=
  ⟨fun _ => rfl, rfl⟩

theorem pow_L_2TAG_PACKET_35_0_2_1_sem (cpu : Cpu) (s : Machine) :
    (∀ l, (L_2TAG_PACKET_35_0_2_1 cpu s).get l = (subl_ri eax 16 (andl_ri eax 32767 (movdl_xr xmm4 edx (movl_ri edx 8192 (pextrw eax xmm4 3 (movq_xm xmm4 8 (movq_xe xmm2 Tbl.LOG2_E 0 (pinsrw xmm1 edx 3 (movl_ri edx 30704 (xorpd xmm1 xmm1 (bind Label.L_2TAG_PACKET_35_0_2 s))))))))))).get l) ∧
    ((L_2TAG_PACKET_35_0_2_1 cpu s).trace = (subl_ri eax 16 (andl_ri eax 32767 (movdl_xr xmm4 edx (movl_ri edx 8192 (pextrw eax xmm4 3 (movq_xm xmm4 8 (movq_xe xmm2 Tbl.LOG2_E 0 (pinsrw xmm1 edx 3 (movl_ri edx 30704 (xorpd xmm1 xmm1 (bind Label.L_2TAG_PACKET_35_0_2 s))))))))))).trace) :=
  ⟨fun _ => rfl, rfl⟩

theorem pow_L_2TAG_PACKET_35_0_2_2_sem (cpu : Cpu) (s : Machine) :
    (∀ l, (L_2TAG_PACKET_35_0_2_2 cpu s).get l = (movl_ri tmp1 0 (bsrl ecx ecx (addl_ri ecx 16 (xorl_rr ecx edx (addl_rr ecx edx (sarl edx 31 (movl_rr ecx edx (subl_ri edx 16368 (andl_ri edx 32752 (movl_rr edx eax s)))))))))).get l) ∧
    ((L_2TAG_PACKET_35_0_2_2 cpu s).trace = (movl_ri tmp1 0 (bsrl ecx ecx (addl_ri ecx 16 (xorl_rr ecx edx (addl_rr ecx edx (sarl edx 31 (movl_rr ecx edx (subl_ri edx 16368 (andl_ri edx 32752 (movl_rr edx eax s)))))))))).trace) :=
  ⟨fun _ => rfl, rfl⟩

theorem pow_L_2TAG_PACKET_34_0_2_1_sem (cpu : Cpu) (s : Machine) :
    (∀ l, (L_2TAG_PACKET_34_0_2_1 cpu s).get l = (movl_mi 0 28 (mulsd xmm0 xmm1 (xorpd xmm0 xmm0 (pinsrw xmm1 eax 3 (movl_ri eax 32752 (xorpd xmm1 xmm1 (bind Label.L_2TAG_PACKET_34_0_2 s))))))).get l) ∧
    ((L_2TAG_PACKET_34_0_2_1 cpu s).trace = (movl_mi 0 28 (mulsd xmm0 xmm1 (xorpd xmm0 xmm0 (pinsrw xmm1 eax 3 (movl_ri eax 32752 (xorpd xmm1 xmm1 (bind Label.L_2TAG_PACKET_34_0_2 s))))))).trace) :=
  ⟨fun _ => rfl, rfl⟩

theorem pow_L_2TAG_PACKET_10_0_2_1_sem (cpu : Cpu) (s : Machine) :
    (∀ l, (L_2TAG_PACKET_10_0_2_1 cpu s).get l = (cmpl_ri edx 0 (orl_rr edx ecx (movdl_rx ecx xmm3 (psrlq xmm3 32 (movdl_rx edx xmm3 (movq_xm xmm3 8 (movq_xm xmm0 8 (bind Label.L_2TAG_PACKET_10_0_2 s)))))))).get l) ∧
    ((L_2TAG_PACKET_10_0_2_1 cpu s).trace = (cmpl_ri edx 0 (orl_rr edx ecx (movdl_rx ecx xmm3 (psrlq xmm3 32 (movdl_rx edx xmm3 (movq_xm xmm3 8 (movq_xm xmm0 8 (bind Label.L_2TAG_PACKET_10_0_2 s)))))))).trace) :=
  ⟨fun _ => rfl, rfl⟩

theorem pow_L_2TAG_PACKET_10_0_2_2_sem (cpu : Cpu) (s : Machine) :
    (∀ l, (L_2TAG_PACKET_10_0_2_2 cpu s).get l = (mulpd xmm5 xmm0 (cvtsi2sdl xmm7 eax (sarl eax 4 (subl_ri eax 18416 (andl_ri eax 32752 (subsd xmm3 xmm5 (pand xmm0 xmm6 (movl_ri tmp1 0x80000000 (pand xmm5 xmm3 (psllq xmm0 29 (movdl_rx edx xmm0 (psllq xmm5 32 (paddd xmm0 xmm4 (por xmm3 xmm1 (movdl_xr xmm5 edx (movl_ri edx 0xFFFFFC00 (mulss xmm0 xmm7 (psrlq xmm3 12 (movdqu_xe xmm6 Tbl.HIGHSIGMASK 0 (psllq xmm3 12 (rcpps cpu.rcp xmm0 xmm0 (psrld xmm0 2 (movq_xe xmm2 Tbl.LOG2_E 0 (psrlq xmm0 27 (movl_ri ecx 18416 (por xmm0 xmm2 (pextrw eax xmm0 3 (movdqu_xx xmm3 xmm0 (pinsrw xmm2 eax 3 (movl_ri eax 16368 (xorpd xmm2 xmm2 (mulsd xmm0 xmm3 (pinsrw xmm3 eax 3 (movl_ri eax 18416 (xorpd xmm3 xmm3 s))))))))))))))))))))))))))))))))))).get l) ∧
    ((L_2TAG_PACKET_10_0_2_2 cpu s).trace = (mulpd xmm5 xmm0 (cvtsi2sdl xmm7 eax (sarl eax 4 (subl_ri eax 18416 (andl_ri eax 32752 (subsd xmm3 xmm5 (pand xmm0 xmm6 (movl_ri tmp1 0x80000000 (pand xmm5 xmm3 (psllq xmm0 29 (movdl_rx edx xmm0 (psllq xmm5 32 (paddd xmm0 xmm4 (por xmm3 xmm1 (movdl_xr xmm5 edx (movl_ri edx 0xFFFFFC00 (mulss xmm0 xmm7 (psrlq xmm3 12 (movdqu_xe xmm6 Tbl.HIGHSIGMASK 0 (psllq xmm3 12 (rcpps cpu.rcp xmm0 xmm0 (psrld xmm0 2 (movq_xe xmm2 Tbl.LOG2_E 0 (psrlq xmm0 27 (movl_ri ecx 18416 (por xmm0 xmm2 (pextrw eax xmm0 3 (movdqu_xx xmm3 xmm0 (pinsrw xmm2 eax 3 (movl_ri eax 16368 (xorpd xmm2 xmm2 (mulsd xmm0 xmm3 (pinsrw xmm3 eax 3 (movl_ri eax 18416 (xorpd xmm3 xmm3 s))))))))))))))))))))))))))))))))))).trace) :=
  ⟨fun _ => rfl, rfl⟩

theorem pow_L_2TAG_PACKET_36_0_2_1_sem (cpu : Cpu) (s : Machine) :
    (∀ l, (L_2TAG_PACKET_36_0_2_1 cpu s).get l = (subl_ri eax 16 (andl_ri eax 32767 (movdl_xr xmm4 edx (movl_ri edx 8192 (pextrw eax xmm4 3 (movq_xm xmm4 8 (movq_xe xmm2 Tbl.LOG2_E 0 (pinsrw xmm1 edx 3 (movl_ri edx 30704 (xorpd xmm1 xmm1 (bind Label.L_2TAG_PACKET_36_0_2 s))))))))))).get l) ∧
    ((L_2TAG_PACKET_36_0_2_1 cpu s).trace = (subl_ri eax 16 (andl_ri eax 32767 (movdl_xr xmm4 edx (movl_ri edx 8192 (pextrw eax xmm4 3 (movq_xm xmm4 8 (movq_xe xmm2 Tbl.LOG2_E 0 (pinsrw xmm1 edx 3 (movl_ri edx 30704 (xorpd xmm1 xmm1 (bind Label.L_2TAG_PACKET_36_0_2 s))))))))))).trace) :=
  ⟨fun _ => rfl, rfl⟩

theorem pow_L_2TAG_PACKET_36_0_2_2_sem (cpu : Cpu) (s : Machine) :
    (∀ l, (L_2TAG_PACKET_36_0_2_2 cpu s).get l = (movl_ri tmp1 0x80000000 (bsrl ecx ecx (addl_ri ecx 16 (xorl_rr ecx edx (addl_rr ecx edx (sarl edx 31 (movl_rr ecx edx (subl_ri edx 16368 (andl_ri edx 32752 (movl_rr edx eax s)))))))))).get l) ∧
    ((L_2TAG_PACKET_36_0_2_2 cpu s).trace = (movl_ri tmp1 0x80000000 (bsrl ecx ecx (addl_ri ecx 16 (xorl_rr ecx edx (addl_rr ecx edx (sarl edx 31 (movl_rr ecx edx (subl_ri edx 16368 (andl_ri edx 32752 (movl_rr edx eax s)))))))))).trace) :=
  ⟨fun _ => rfl, rfl⟩

theorem pow_L_2TAG_PACKET_33_0_2_1_sem (cpu : Cpu) (s : Machine) :
    (∀ l, (L_2TAG_PACKET_33_0_2_1 cpu s).get l = (testl_ri eax 1 (bind Label.L_2TAG_PACKET_33_0_2 s)).get l) ∧
    ((L_2TAG_PACKET_33_0_2_1 cpu s).trace = (testl_ri eax 1 (bind Label.L_2TAG_PACKET_33_0_2 s)).trace) :=
  ⟨fun _ => rfl, rfl⟩

theorem pow_L_2TAG_PACKET_33_0_2_2_sem (cpu : Cpu) (s : Machine) :
    (∀ l, (L_2TAG_PACKET_33_0_2_2 cpu s).get l = s.get l) ∧
    ((L_2TAG_PACKET_33_0_2_2 cpu s).trace = s.trace) :=
  ⟨fun _ => rfl, rfl⟩

theorem pow_L_2TAG_PACKET_32_0_2_1_sem (cpu : Cpu) (s : Machine) :
    (∀ l, (L_2TAG_PACKET_32_0_2_1 cpu s).get l = (cmpl_ri edx 17184 (movdl_rx eax xmm1 (bind Label.L_2TAG_PACKET_32_0_2 s))).get l) ∧
    ((L_2TAG_PACKET_32_0_2_1 cpu s).trace = (cmpl_ri edx 17184 (movdl_rx eax xmm1 (bind Label.L_2TAG_PACKET_32_0_2 s))).trace) :=
  ⟨fun _ => rfl, rfl⟩

theorem pow_L_2TAG_PACKET_32_0_2_2_sem (cpu : Cpu) (s : Machine) :
    (∀ l, (L_2TAG_PACKET_32_0_2_2 cpu s).get l = (testl_ri eax 1 s).get l) ∧
    ((L_2TAG_PACKET_32_0_2_2 cpu s).trace = (testl_ri eax 1 s).trace) :=
  ⟨fun _ => rfl, rfl⟩

theorem pow_L_2TAG_PACKET_32_0_2_3_sem (cpu : Cpu) (s : Machine) :
    (∀ l, (L_2TAG_PACKET_32_0_2_3 cpu s).get l = (testl_ri eax 2 s).get l) ∧
    ((L_2TAG_PACKET_32_0_2_3 cpu s).trace = (testl_ri eax 2 s).trace) :=
  ⟨fun _ => rfl, rfl⟩

theorem pow_L_2TAG_PACKET_32_0_2_4_sem (cpu : Cpu) (s : Machine) :
    (∀ l, (L_2TAG_PACKET_32_0_2_4 cpu s).get l = s.get l) ∧
    ((L_2TAG_PACKET_32_0_2_4 cpu s).trace = s.trace) :=
  ⟨fun _ => rfl, rfl⟩

theorem pow_L_2TAG_PACKET_31_0_2_1_sem (cpu : Cpu) (s : Machine) :
    (∀ l, (L_2TAG_PACKET_31_0_2_1 cpu s).get l = (pinsrw xmm0 ecx 3 (movl_ri ecx 32752 (bind Label.L_2TAG_PACKET_31_0_2 s))).get l) ∧
    ((L_2TAG_PACKET_31_0_2_1 cpu s).trace = (pinsrw xmm0 ecx 3 (movl_ri ecx 32752 (bind Label.L_2TAG_PACKET_31_0_2 s))).trace) :=
  ⟨fun _ => rfl, rfl⟩

theorem pow_L_2TAG_PACKET_30_0_2_1_sem (cpu : Cpu) (s : Machine) :
    (∀ l, (L_2TAG_PACKET_30_0_2_1 cpu s).get l = (andl_ri eax 32768 (xorl_rr eax edx (xorpd xmm0 xmm0 (pextrw edx xmm1 3 (subl_ri eax 16368 (andl_ri eax 32752 (movq_xm xmm1 16 (bind Label.L_2TAG_PACKET_30_0_2 s)))))))).get l) ∧
    ((L_2TAG_PACKET_30_0_2_1 cpu s).trace = (andl_ri eax 32768 (xorl_rr eax edx (xorpd xmm0 xmm0 (pextrw edx xmm1 3 (subl_ri eax 16368 (andl_ri eax 32752 (movq_xm xmm1 16 (bind Label.L_2TAG_PACKET_30_0_2 s)))))))).trace) :=
  ⟨fun _ => rfl, rfl⟩

theorem pow_L_2TAG_PACKET_30_0_2_2_sem (cpu : Cpu) (s : Machine) :
    (∀ l, (L_2TAG_PACKET_30_0_2_2 cpu s).get l = s.get l) ∧
    ((L_2TAG_PACKET_30_0_2_2 cpu s).trace = s.trace) :=
  ⟨fun _ => rfl, rfl⟩

theorem pow_L_2TAG_PACKET_29_0_2_1_sem (cpu : Cpu) (s : Machine) :
    (∀ l, (L_2TAG_PACKET_29_0_2_1 cpu s).get l = (cmpl_ri eax 49136 (pextrw eax xmm0 3 (movq_xm xmm0 8 (bind Label.L_2TAG_PACKET_29_0_2 s)))).get l) ∧
    ((L_2TAG_PACKET_29_0_2_1 cpu s).trace = (cmpl_ri eax 49136 (pextrw eax xmm0 3 (movq_xm xmm0 8 (bind Label.L_2TAG_PACKET_29_0_2 s)))).trace) :=
  ⟨fun _ => rfl, rfl⟩

theorem pow_L_2TAG_PACKET_29_0_2_2_sem (cpu : Cpu) (s : Machine) :
    (∀ l, (L_2TAG_PACKET_29_0_2_2 cpu s).get l = (orl_rr ecx edx (movdl_rx edx xmm0 (psrlq xmm0 20 (movdl_rx ecx xmm0 s)))).get l) ∧
    ((L_2TAG_PACKET_29_0_2_2 cpu s).trace = (orl_rr ecx edx (movdl_rx edx xmm0 (psrlq xmm0 20 (movdl_rx ecx xmm0 s)))).trace) :=
  ⟨fun _ => rfl, rfl⟩

theorem pow_L_2TAG_PACKET_29_0_2_3_sem (cpu : Cpu) (s : Machine) :
    (∀ l, (L_2TAG_PACKET_29_0_2_3 cpu s).get l = (pinsrw xmm0 eax 3 (movl_ri eax 32760 (xorpd xmm0 xmm0 s))).get l) ∧
    ((L_2TAG_PACKET_29_0_2_3 cpu s).trace = (pinsrw xmm0 eax 3 (movl_ri eax 32760 (xorpd xmm0 xmm0 s))).trace) :=
  ⟨fun _ => rfl, rfl⟩

theorem pow_L_2TAG_PACKET_28_0_2_1_sem (cpu : Cpu) (s : Machine) :
    (∀ l, (L_2TAG_PACKET_28_0_2_1 cpu s).get l = (orl_rr eax edx (movdl_rx edx xmm1 (psrlq xmm1 20 (movdl_rx eax xmm1 (bind Label.L_2TAG_PACKET_28_0_2 s))))).get l) ∧
    ((L_2TAG_PACKET_28_0_2_1 cpu s).trace = (orl_rr eax edx (movdl_rx edx xmm1 (psrlq xmm1 20 (movdl_rx eax xmm1 (bind Label.L_2TAG_PACKET_28_0_2 s))))).trace) :=
  ⟨fun _ => rfl, rfl⟩

theorem pow_L_2TAG_PACKET_28_0_2_2_sem (cpu : Cpu) (s : Machine) :
    (∀ l, (L_2TAG_PACKET_28_0_2_2 cpu s).get l = (addsd xmm0 xmm0 (movq_xm xmm0 16 s)).get l) ∧
    ((L_2TAG_PACKET_28_0_2_2 cpu s).trace = (addsd xmm0 xmm0 (movq_xm xmm0 16 s)).trace) :=
  ⟨fun _ => rfl, rfl⟩

theorem pow_L_2TAG_PACKET_7_0_2_1_sem (cpu : Cpu) (s : Machine) :
    (∀ l, (L_2TAG_PACKET_7_0_2_1 cpu s).get l = (orl_rr eax ecx (movdl_rx ecx xmm2 (psrlq xmm2 31 (movdl_rx eax xmm2 (movq_xm xmm2 8 (bind Label.L_2TAG_PACKET_7_0_2 s)))))).get l) ∧
    ((L_2TAG_PACKET_7_0_2_1 cpu s).trace = (orl_rr eax ecx (movdl_rx ecx xmm2 (psrlq xmm2 31 (movdl_rx eax xmm2 (movq_xm xmm2 8 (bind Label.L_2TAG_PACKET_7_0_2 s)))))).trace) :=
  ⟨fun _ => rfl, rfl⟩

theorem pow_L_2TAG_PACKET_7_0_2_2_sem (cpu : Cpu) (s : Machine) :
    (∀ l, (L_2TAG_PACKET_7_0_2_2 cpu s).get l = (orl_rr ecx eax (addl_rr ecx ecx (movdl_rx ecx xmm2 (psrlq xmm2 32 (movdqu_xx xmm2 xmm1 (movdl_rx eax xmm1 (pextrw edx xmm1 3 (movq_xm xmm1 16 s)))))))).get l) ∧
    ((L_2TAG_PACKET_7_0_2_2 cpu s).trace = (orl_rr ecx eax (addl_rr ecx ecx (movdl_rx ecx xmm2 (psrlq xmm2 32 (movdqu_xx xmm2 xmm1 (movdl_rx eax xmm1 (pextrw edx xmm1 3 (movq_xm xmm1 16 s)))))))).trace) :=
  ⟨fun _ => rfl, rfl⟩

theorem pow_L_2TAG_PACKET_7_0_2_3_sem (cpu : Cpu) (s : Machine) :
    (∀ l, (L_2TAG_PACKET_7_0_2_3 cpu s).get l = (cmpl_ri edx 32752 (andl_ri edx 32752 s)).get l) ∧
    ((L_2TAG_PACKET_7_0_2_3 cpu s).trace = (cmpl_ri edx 32752 (andl_ri edx 32752 s)).trace) :=
  ⟨fun _ => rfl, rfl⟩

theorem pow_L_2TAG_PACKET_7_0_2_4_sem (cpu : Cpu) (s : Machine) :
    (∀ l, (L_2TAG_PACKET_7_0_2_4 cpu s).get l = (cmpl_ri edx 17200 s).get l) ∧
    ((L_2TAG_PACKET_7_0_2_4 cpu s).trace = (cmpl_ri edx 17200 s).trace) :=
  ⟨fun _ => rfl, rfl⟩

theorem pow_L_2TAG_PACKET_7_0_2_5_sem (cpu : Cpu) (s : Machine) :
    (∀ l, (L_2TAG_PACKET_7_0_2_5 cpu s).get l = (cmpl_ri edx 17184 s).get l) ∧
    ((L_2TAG_PACKET_7_0_2_5 cpu s).trace = (cmpl_ri edx 17184 s).trace) :=
  ⟨fun _ => rfl, rfl⟩

theorem pow_L_2TAG_PACKET_7_0_2_6_sem (cpu : Cpu) (s : Machine) :
    (∀ l, (L_2TAG_PACKET_7_0_2_6 cpu s).get l = (cmpl_ri edx 16368 s).get l) ∧
    ((L_2TAG_PACKET_7_0_2_6 cpu s).trace = (cmpl_ri edx 16368 s).trace) :=
  ⟨fun _ => rfl, rfl⟩

theorem pow_L_2TAG_PACKET_7_0_2_7_sem (cpu : Cpu) (s : Machine) :
    (∀ l, (L_2TAG_PACKET_7_0_2_7 cpu s).get l = (andl_ri eax 32767 (pextrw eax xmm1 3 (addsd xmm1 xmm4 (subsd xmm4 xmm2 (addsd xmm2 xmm1 (movdqu_xx xmm4 xmm2 (pinsrw xmm2 eax 3 (xorpd xmm2 xmm2 (movl_ri eax 17208 s))))))))).get l) ∧
    ((L_2TAG_PACKET_7_0_2_7 cpu s).trace = (andl_ri eax 32767 (pextrw eax xmm1 3 (addsd xmm1 xmm4 (subsd xmm4 xmm2 (addsd xmm2 xmm1 (movdqu_xx xmm4 xmm2 (pinsrw xmm2 eax 3 (xorpd xmm2 xmm2 (movl_ri eax 17208 s))))))))).trace) :=
  ⟨fun _ => rfl, rfl⟩

theorem pow_L_2TAG_PACKET_7_0_2_8_sem (cpu : Cpu) (s : Machine) :
    (∀ l, (L_2TAG_PACKET_7_0_2_8 cpu s).get l = (andl_ri eax 1 (movdl_rx eax xmm2 s)).get l) ∧
    ((L_2TAG_PACKET_7_0_2_8 cpu s).trace = (andl_ri eax 1 (movdl_rx eax xmm2 s)).trace) :=
  ⟨fun _ => rfl, rfl⟩

theorem pow_L_2TAG_PACKET_7_0_2_9_sem (cpu : Cpu) (s : Machine) :
    (∀ l, (L_2TAG_PACKET_7_0_2_9 cpu s).get l = s.get l) ∧
    ((L_2TAG_PACKET_7_0_2_9 cpu s).trace = s.trace) :=
  ⟨fun _ => rfl, rfl⟩

theorem pow_L_2TAG_PACKET_19_0_2_1_sem (cpu : Cpu) (s : Machine) :
    (∀ l, (L_2TAG_PACKET_19_0_2_1 cpu s).get l = (pinsrw xmm0 eax 3 (movl_ri eax 16368 (xorpd xmm0 xmm0 (bind Label.L_2TAG_PACKET_19_0_2 s)))).get l) ∧
    ((L_2TAG_PACKET_19_0_2_1 cpu s).trace = (pinsrw xmm0 eax 3 (movl_ri eax 16368 (xorpd xmm0 xmm0 (bind Label.L_2TAG_PACKET_19_0_2 s)))).trace) :=
  ⟨fun _ => rfl, rfl⟩

theorem pow_L_2TAG_PACKET_24_0_2_1_sem (cpu : Cpu) (s : Machine) :
    (∀ l, (L_2TAG_PACKET_24_0_2_1 cpu s).get l = (andl_ri eax 32768 (pextrw eax xmm1 3 (movq_xm xmm1 16 (bind Label.L_2TAG_PACKET_24_0_2 s)))).get l) ∧
    ((L_2TAG_PACKET_24_0_2_1 cpu s).trace = (andl_ri eax 32768 (pextrw eax xmm1 3 (movq_xm xmm1 16 (bind Label.L_2TAG_PACKET_24_0_2 s)))).trace) :=
  ⟨fun _ => rfl, rfl⟩

theorem pow_L_2TAG_PACKET_24_0_2_2_sem (cpu : Cpu) (s : Machine) :
    (∀ l, (L_2TAG_PACKET_24_0_2_2 cpu s).get l = (pinsrw xmm0 eax 3 (movl_ri eax 32752 (xorpd xmm0 xmm0 s))).get l) ∧
    ((L_2TAG_PACKET_24_0_2_2 cpu s).trace = (pinsrw xmm0 eax 3 (movl_ri eax 32752 (xorpd xmm0 xmm0 s))).trace) :=
  ⟨fun _ => rfl, rfl⟩

theorem pow_L_2TAG_PACKET_27_0_2_1_sem (cpu : Cpu) (s : Machine) :
    (∀ l, (L_2TAG_PACKET_27_0_2_1 cpu s).get l = (pinsrw xmm0 eax 3 (movl_ri eax 32768 (xorpd xmm0 xmm0 (bind Label.L_2TAG_PACKET_27_0_2 s)))).get l) ∧
    ((L_2TAG_PACKET_27_0_2_1 cpu s).trace = (pinsrw xmm0 eax 3 (movl_ri eax 32768 (xorpd xmm0 xmm0 (bind Label.L_2TAG_PACKET_27_0_2 s)))).trace) :=
  ⟨fun _ => rfl, rfl⟩

theorem pow_L_2TAG_PACKET_25_0_2_1_sem (cpu : Cpu) (s : Machine) :
    (∀ l, (L_2TAG_PACKET_25_0_2_1 cpu s).get l = (andl_ri eax 32768 (pextrw eax xmm1 3 (movq_xm xmm1 16 (bind Label.L_2TAG_PACKET_25_0_2 s)))).get l) ∧
    ((L_2TAG_PACKET_25_0_2_1 cpu s).trace = (andl_ri eax 32768 (pextrw eax xmm1 3 (movq_xm xmm1 16 (bind Label.L_2TAG_PACKET_25_0_2 s)))).trace) :=
  ⟨fun _ => rfl, rfl⟩

theorem pow_L_2TAG_PACKET_25_0_2_2_sem (cpu : Cpu) (s : Machine) :
    (∀ l, (L_2TAG_PACKET_25_0_2_2 cpu s).get l = s.get l) ∧
    ((L_2TAG_PACKET_25_0_2_2 cpu s).trace = s.trace) :=
  ⟨fun _ => rfl, rfl⟩

theorem pow_L_2TAG_PACKET_26_0_2_1_sem (cpu : Cpu) (s : Machine) :
    (∀ l, (L_2TAG_PACKET_26_0_2_1 cpu s).get l = (andl_ri eax 1 (movdl_rx eax xmm1 (movq_xm xmm1 16 (bind Label.L_2TAG_PACKET_26_0_2 s)))).get l) ∧
    ((L_2TAG_PACKET_26_0_2_1 cpu s).trace = (andl_ri eax 1 (movdl_rx eax xmm1 (movq_xm xmm1 16 (bind Label.L_2TAG_PACKET_26_0_2 s)))).trace) :=
  ⟨fun _ => rfl, rfl⟩

theorem pow_L_2TAG_PACKET_26_0_2_2_sem (cpu : Cpu) (s : Machine) :
    (∀ l, (L_2TAG_PACKET_26_0_2_2 cpu s).get l = s.get l) ∧
    ((L_2TAG_PACKET_26_0_2_2 cpu s).trace = s.trace) :=
  ⟨fun _ => rfl, rfl⟩

theorem pow_L_2TAG_PACKET_23_0_2_1_sem (cpu : Cpu) (s : Machine) :
    (∀ l, (L_2TAG_PACKET_23_0_2_1 cpu s).get l = (testl_ri eax 1 (movdl_rx eax xmm1 (movq_xm xmm1 16 (bind Label.L_2TAG_PACKET_23_0_2 s)))).get l) ∧
    ((L_2TAG_PACKET_23_0_2_1 cpu s).trace = (testl_ri eax 1 (movdl_rx eax xmm1 (movq_xm xmm1 16 (bind Label.L_2TAG_PACKET_23_0_2 s)))).trace) :=
  ⟨fun _ => rfl, rfl⟩

theorem pow_L_2TAG_PACKET_23_0_2_2_sem (cpu : Cpu) (s : Machine) :
    (∀ l, (L_2TAG_PACKET_23_0_2_2 cpu s).get l = (testl_ri eax 2 s).get l) ∧
    ((L_2TAG_PACKET_23_0_2_2 cpu s).trace = (testl_ri eax 2 s).trace) :=
  ⟨fun _ => rfl, rfl⟩

theorem pow_L_2TAG_PACKET_23_0_2_3_sem (cpu : Cpu) (s : Machine) :
    (∀ l, (L_2TAG_PACKET_23_0_2_3 cpu s).get l = s.get l) ∧
    ((L_2TAG_PACKET_23_0_2_3 cpu s).trace = s.trace) :=
  ⟨fun _ => rfl, rfl⟩

theorem pow_L_2TAG_PACKET_21_0_2_1_sem (cpu : Cpu) (s : Machine) :
    (∀ l, (L_2TAG_PACKET_21_0_2_1 cpu s).get l = (cmpl_ri ecx 1075 (andl_ri ecx 2047 (shrl ecx 20 (bind Label.L_2TAG_PACKET_21_0_2 s)))).get l) ∧
    ((L_2TAG_PACKET_21_0_2_1 cpu s).trace = (cmpl_ri ecx 1075 (andl_ri ecx 2047 (shrl ecx 20 (bind Label.L_2TAG_PACKET_21_0_2 s)))).trace) :=
  ⟨fun _ => rfl, rfl⟩

theorem pow_L_2TAG_PACKET_21_0_2_2_sem (cpu : Cpu) (s : Machine) :
    (∀ l, (L_2TAG_PACKET_21_0_2_2 cpu s).get l = s.get l) ∧
    ((L_2TAG_PACKET_21_0_2_2 cpu s).trace = s.trace) :=
  ⟨fun _ => rfl, rfl⟩

theorem pow_L_2TAG_PACKET_21_0_2_3_sem (cpu : Cpu) (s : Machine) :
    (∀ l, (L_2TAG_PACKET_21_0_2_3 cpu s).get l = (cmpl_ri ecx 1074 s).get l) ∧
    ((L_2TAG_PACKET_21_0_2_3 cpu s).trace = (cmpl_ri ecx 1074 s).trace) :=
  ⟨fun _ => rfl, rfl⟩

theorem pow_L_2TAG_PACKET_21_0_2_4_sem (cpu : Cpu) (s : Machine) :
    (∀ l, (L_2TAG_PACKET_21_0_2_4 cpu s).get l = (cmpl_ri ecx 1023 s).get l) ∧
    ((L_2TAG_PACKET_21_0_2_4 cpu s).trace = (cmpl_ri ecx 1023 s).trace) :=
  ⟨fun _ => rfl, rfl⟩

theorem pow_L_2TAG_PACKET_21_0_2_5_sem (cpu : Cpu) (s : Machine) :
    (∀ l, (L_2TAG_PACKET_21_0_2_5 cpu s).get l = (andl_ri eax 32752 (pextrw eax xmm1 3 (addsd xmm1 xmm4 (subsd xmm4 xmm3 (addsd xmm3 xmm1 (movdqu_xx xmm4 xmm3 (pinsrw xmm3 eax 3 (xorpd xmm3 xmm3 (movl_ri eax 17208 (movq_xm xmm1 16 s)))))))))).get l) ∧
    ((L_2TAG_PACKET_21_0_2_5 cpu s).trace = (andl_ri eax 32752 (pextrw eax xmm1 3 (addsd xmm1 xmm4 (subsd xmm4 xmm3 (addsd xmm3 xmm1 (movdqu_xx xmm4 xmm3 (pinsrw xmm3 eax 3 (xorpd xmm3 xmm3 (movl_ri eax 17208 (movq_xm xmm1 16 s)))))))))).trace) :=
  ⟨fun _ => rfl, rfl⟩

theorem pow_L_2TAG_PACKET_21_0_2_6_sem (cpu : Cpu) (s : Machine) :
    (∀ l, (L_2TAG_PACKET_21_0_2_6 cpu s).get l = (andl_ri eax 1 (movdl_rx eax xmm3 s)).get l) ∧
    ((L_2TAG_PACKET_21_0_2_6 cpu s).trace = (andl_ri eax 1 (movdl_rx eax xmm3 s)).trace) :=
  ⟨fun _ => rfl, rfl⟩

theorem pow_L_2TAG_PACKET_21_0_2_7_sem (cpu : Cpu) (s : Machine) :
    (∀ l, (L_2TAG_PACKET_21_0_2_7 cpu s).get l = s.get l) ∧
    ((L_2TAG_PACKET_21_0_2_7 cpu s).trace = s.trace) :=
  ⟨fun _ => rfl, rfl⟩

theorem pow_L_2TAG_PACKET_20_0_2_1_sem (cpu : Cpu) (s : Machine) :
    (∀ l, (L_2TAG_PACKET_20_0_2_1 cpu s).get l = (testl_ri eax 32768 (pextrw eax xmm0 3 (bind Label.L_2TAG_PACKET_20_0_2 s))).get l) ∧
    ((L_2TAG_PACKET_20_0_2_1 cpu s).trace = (testl_ri eax 32768 (pextrw eax xmm0 3 (bind Label.L_2TAG_PACKET_20_0_2 s))).trace) :=
  ⟨fun _ => rfl, rfl⟩

theorem pow_L_2TAG_PACKET_20_0_2_2_sem (cpu : Cpu) (s : Machine) :
    (∀ l, (L_2TAG_PACKET_20_0_2_2 cpu s).get l = (testl_ri ecx 0x80000000 s).get l) ∧
    ((L_2TAG_PACKET_20_0_2_2 cpu s).trace = (testl_ri ecx 0x80000000 s).trace) :=
  ⟨fun _ => rfl, rfl⟩

theorem pow_L_2TAG_PACKET_20_0_2_3_sem (cpu : Cpu) (s : Machine) :
    (∀ l, (L_2TAG_PACKET_20_0_2_3 cpu s).get l = s.get l) ∧
    ((L_2TAG_PACKET_20_0_2_3 cpu s).trace = s.trace) :=
  ⟨fun _ => rfl, rfl⟩

theorem pow_L_2TAG_PACKET_15_0_2_1_sem (cpu : Cpu) (s : Machine) :
    (∀ l, (L_2TAG_PACKET_15_0_2_1 cpu s).get l = (orl_rr eax edx (addl_rr edx edx (movl_rr ecx edx (movdl_rx edx xmm1 (psrlq xmm1 32 (movdqu_xx xmm2 xmm1 (movdl_rx eax xmm1 (bind Label.L_2TAG_PACKET_15_0_2 s)))))))).get l) ∧
    ((L_2TAG_PACKET_15_0_2_1 cpu s).trace = (orl_rr eax edx (addl_rr edx edx (movl_rr ecx edx (movdl_rx edx xmm1 (psrlq xmm1 32 (movdqu_xx xmm2 xmm1 (movdl_rx eax xmm1 (bind Label.L_2TAG_PACKET_15_0_2 s)))))))).trace) :=
  ⟨fun _ => rfl, rfl⟩

theorem pow_L_2TAG_PACKET_15_0_2_2_sem (cpu : Cpu) (s : Machine) :
    (∀ l, (L_2TAG_PACKET_15_0_2_2 cpu s).get l = (cmpl_ri eax 32752 (andl_ri eax 32752 (pextrw eax xmm2 3 s))).get l) ∧
    ((L_2TAG_PACKET_15_0_2_2 cpu s).trace = (cmpl_ri eax 32752 (andl_ri eax 32752 (pextrw eax xmm2 3 s))).trace) :=
  ⟨fun _ => rfl, rfl⟩

theorem pow_L_2TAG_PACKET_15_0_2_3_sem (cpu : Cpu) (s : Machine) :
    (∀ l, (L_2TAG_PACKET_15_0_2_3 cpu s).get l = (orl_rr eax edx (movdl_rx edx xmm2 (psrlq xmm2 20 (movdl_rx eax xmm2 s)))).get l) ∧
    ((L_2TAG_PACKET_15_0_2_3 cpu s).trace = (orl_rr eax edx (movdl_rx edx xmm2 (psrlq xmm2 20 (movdl_rx eax xmm2 s)))).trace) :=
  ⟨fun _ => rfl, rfl⟩

theorem pow_L_2TAG_PACKET_15_0_2_4_sem (cpu : Cpu) (s : Machine) :
    (∀ l, (L_2TAG_PACKET_15_0_2_4 cpu s).get l = s.get l) ∧
    ((L_2TAG_PACKET_15_0_2_4 cpu s).trace = s.trace) :=
  ⟨fun _ => rfl, rfl⟩

theorem pow_L_2TAG_PACKET_16_0_2_1_sem (cpu : Cpu) (s : Machine) :
    (∀ l, (L_2TAG_PACKET_16_0_2_1 cpu s).get l = (movl_mi 0 29 (pinsrw xmm0 eax 3 (movl_ri eax 16368 (xorpd xmm0 xmm0 (bind Label.L_2TAG_PACKET_16_0_2 s))))).get l) ∧
    ((L_2TAG_PACKET_16_0_2_1 cpu s).trace = (movl_mi 0 29 (pinsrw xmm0 eax 3 (movl_ri eax 16368 (xorpd xmm0 xmm0 (bind Label.L_2TAG_PACKET_16_0_2 s))))).trace) :=
  ⟨fun _ => rfl, rfl⟩

theorem pow_L_2TAG_PACKET_6_0_2_1_sem (cpu : Cpu) (s : Machine) :
    (∀ l, (L_2TAG_PACKET_6_0_2_1 cpu s).get l = (orl_rr eax edx (movdl_rx edx xmm2 (psrlq xmm2 20 (movdl_rx eax xmm2 (movdqu_xx xmm2 xmm0 (movq_xm xmm0 8 (movq_xm xmm1 16 (bind Label.L_2TAG_PACKET_6_0_2 s)))))))).get l) ∧
    ((L_2TAG_PACKET_6_0_2_1 cpu s).trace = (orl_rr eax edx (movdl_rx edx xmm2 (psrlq xmm2 20 (movdl_rx eax xmm2 (movdqu_xx xmm2 xmm0 (movq_xm xmm0 8 (movq_xm xmm1 16 (bind Label.L_2TAG_PACKET_6_0_2 s)))))))).trace) :=
  ⟨fun _ => rfl, rfl⟩

theorem pow_L_2TAG_PACKET_6_0_2_2_sem (cpu : Cpu) (s : Machine) :
    (∀ l, (L_2TAG_PACKET_6_0_2_2 cpu s).get l = (orl_rr eax edx (addl_rr edx edx (movl_rr ecx edx (movdl_rx edx xmm1 (psrlq xmm1 32 (movdl_rx eax xmm1 s)))))).get l) ∧
    ((L_2TAG_PACKET_6_0_2_2 cpu s).trace = (orl_rr eax edx (addl_rr edx edx (movl_rr ecx edx (movdl_rx edx xmm1 (psrlq xmm1 32 (movdl_rx eax xmm1 s)))))).trace) :=
  ⟨fun _ => rfl, rfl⟩

theorem pow_L_2TAG_PACKET_6_0_2_3_sem (cpu : Cpu) (s : Machine) :
    (∀ l, (L_2TAG_PACKET_6_0_2_3 cpu s).get l = (addsd xmm0 xmm0 s).get l) ∧
    ((L_2TAG_PACKET_6_0_2_3 cpu s).trace = (addsd xmm0 xmm0 s).trace) :=
  ⟨fun _ => rfl, rfl⟩

theorem pow_L_2TAG_PACKET_0_0_2_1_sem (cpu : Cpu) (s : Machine) :
    (∀ l, (L_2TAG_PACKET_0_0_2_1 cpu s).get l = (cmpl_ri edx 32752 (andl_rr edx eax (movl_ri edx 32752 (addl_ri eax 16 (bind Label.L_2TAG_PACKET_0_0_2 s))))).get l) ∧
    ((L_2TAG_PACKET_0_0_2_1 cpu s).trace = (cmpl_ri edx 32752 (andl_rr edx eax (movl_ri edx 32752 (addl_ri eax 16 (bind Label.L_2TAG_PACKET_0_0_2 s))))).trace) :=
  ⟨fun _ => rfl, rfl⟩

theorem pow_L_2TAG_PACKET_0_0_2_2_sem (cpu : Cpu) (s : Machine) :
    (∀ l, (L_2TAG_PACKET_0_0_2_2 cpu s).get l = (testl_ri eax 32768 s).get l) ∧
    ((L_2TAG_PACKET_0_0_2_2 cpu s).trace = (testl_ri eax 32768 s).trace) :=
  ⟨fun _ => rfl, rfl⟩

theorem pow_L_2TAG_PACKET_0_0_2_3_sem (cpu : Cpu) (s : Machine) :
    (∀ l, (L_2TAG_PACKET_0_0_2_3 cpu s).get l = s.get l) ∧
    ((L_2TAG_PACKET_0_0_2_3 cpu s).trace = s.trace) :=
  ⟨fun _ => rfl, rfl⟩

theorem pow_B1_2_1_sem (cpu : Cpu) (s : Machine) :
    (∀ l, (B1_2_1 cpu s).get l = (cmpl_ri eax 32736 (subl_ri eax 16 (psrlq xmm3 12 (movdq_xr xmm4 tmp4 (movl_ri tmp4 8192 (psllq xmm3 12 (rcpps cpu.rcp xmm0 xmm0 (bsrl ecx ecx (addl_ri ecx 16 (psrld xmm0 2 (movq_xe xmm2 Tbl.LOG2_E 0 (psrlq xmm0 27 (movdqu_xe xmm6 Tbl.HIGHSIGMASK 0 (por xmm0 xmm2 (xorl_rr ecx edx (addl_rr ecx edx (sarl edx 31 (movl_rr ecx edx (subl_ri edx 16368 (andl_rr edx eax (movl_ri edx 32752 (movdqu_xx xmm3 xmm0 (movdq_xr xmm1 tmp3 (mov64 tmp3 0x77f0000000000000 (xorpd xmm1 xmm1 (movdq_xr xmm7 tmp1 (movl_ri tmp1 1069088768 (movdq_xr xmm2 tmp2 (mov64 tmp2 0x3ff0000000000000 (xorpd xmm2 xmm2 (pextrw eax xmm0 3 (bind Label.B1_2 s)))))))))))))))))))))))))))))))).get l) ∧
    ((B1_2_1 cpu s).trace = (cmpl_ri eax 32736 (subl_ri eax 16 (psrlq xmm3 12 (movdq_xr xmm4 tmp4 (movl_ri tmp4 8192 (psllq xmm3 12 (rcpps cpu.rcp xmm0 xmm0 (bsrl ecx ecx (addl_ri ecx 16 (psrld xmm0 2 (movq_xe xmm2 Tbl.LOG2_E 0 (psrlq xmm0 27 (movdqu_xe xmm6 Tbl.HIGHSIGMASK 0 (por xmm0 xmm2 (xorl_rr ecx edx (addl_rr ecx edx (sarl edx 31 (movl_rr ecx edx (subl_ri edx 16368 (andl_rr edx eax (movl_ri edx 32752 (movdqu_xx xmm3 xmm0 (movdq_xr xmm1 tmp3 (mov64 tmp3 0x77f0000000000000 (xorpd xmm1 xmm1 (movdq_xr xmm7 tmp1 (movl_ri tmp1 1069088768 (movdq_xr xmm2 tmp2 (mov64 tmp2 0x3ff0000000000000 (xorpd xmm2 xmm2 (pextrw eax xmm0 3 (bind Label.B1_2 s)))))))))))))))))))))))))))))))).trace) :=
  ⟨fun _ => rfl, rfl⟩

theorem pow_B1_2_2_sem (cpu : Cpu) (s : Machine) :
    (∀ l, (B1_2_2 cpu s).get l = (movl_ri tmp1 0 s).get l) ∧
    ((B1_2_2 cpu s).trace = (movl_ri tmp1 0 s).trace) :=
  ⟨fun _ => rfl, rfl⟩

theorem pow_start_1_sem (cpu : Cpu) (s : Machine) :
    (∀ l, (start_1 cpu s).get l = (movsd_mx 16 xmm1 (movsd_mx 8 xmm0 (subq_rsp 40 (bind Label.start s)))).get l) ∧
    ((start_1 cpu s).trace = (movsd_mx 16 xmm1 (movsd_mx 8 xmm0 (subq_rsp 40 (bind Label.start s)))).trace) :=
  ⟨fun _ => rfl, rfl⟩

theorem pow_entry_1_sem (cpu : Cpu) (s : Machine) :
    (∀ l, (entry_1 cpu s).get l = (bind Label.entry s).get l) ∧
    ((entry_1 cpu s).trace = (bind Label.entry s).trace) :=
  ⟨fun _ => rfl, rfl⟩

end fast_pow

end MacroAssembler

namespace MacroAssembler
open XReg GReg

namespace fast_exp

theorem exp_B1_5_eq (cpu : Cpu) (s : Machine) : B1_5 cpu s =
    (B1_5_1 cpu s) := rfl

theorem exp_L_2TAG_PACKET_11_0_2_eq (cpu : Cpu) (s : Machine) : L_2TAG_PACKET_11_0_2 cpu s =
    B1_5 cpu (L_2TAG_PACKET_11_0_2_1 cpu s) := rfl

theorem exp_L_2TAG_PACKET_12_0_2_eq (cpu : Cpu) (s : Machine) : L_2TAG_PACKET_12_0_2 cpu s =
    B1_5 cpu (L_2TAG_PACKET_12_0_2_1 cpu s) := rfl

theorem exp_L_2TAG_PACKET_9_0_2_eq (cpu : Cpu) (s : Machine) : L_2TAG_PACKET_9_0_2 cpu s =
    if cc_above (L_2TAG_PACKET_9_0_2_1 cpu s) then L_2TAG_PACKET_11_0_2 cpu (L_2TAG_PACKET_9_0_2_1 cpu s) else
    if cc_notEqual (L_2TAG_PACKET_9_0_2_2 cpu (L_2TAG_PACKET_9_0_2_1 cpu s)) then L_2TAG_PACKET_11_0_2 cpu (L_2TAG_PACKET_9_0_2_2 cpu (L_2TAG_PACKET_9_0_2_1 cpu s)) else
    if cc_notEqual (L_2TAG_PACKET_9_0_2_3 cpu (L_2TAG_PACKET_9_0_2_2 cpu (L_2TAG_PACKET_9_0_2_1 cpu s))) then L_2TAG_PACKET_12_0_2 cpu (L_2TAG_PACKET_9_0_2_3 cpu (L_2TAG_PACKET_9_0_2_2 cpu (L_2TAG_PACKET_9_0_2_1 cpu s))) else
    B1_5 cpu (L_2TAG_PACKET_9_0_2_4 cpu (L_2TAG_PACKET_9_0_2_3 cpu (L_2TAG_PACKET_9_0_2_2 cpu (L_2TAG_PACKET_9_0_2_1 cpu s)))) := rfl

theorem exp_B1_3_eq (cpu : Cpu) (s : Machine) : B1_3 cpu s =
    B1_5 cpu (B1_3_1 cpu s) := rfl

theorem exp_L_2TAG_PACKET_6_0_2_eq (cpu : Cpu) (s : Machine) : L_2TAG_PACKET_6_0_2 cpu s =
    B1_3 cpu (L_2TAG_PACKET_6_0_2_1 cpu s) := rfl

theorem exp_L_2TAG_PACKET_10_0_2_eq (cpu : Cpu) (s : Machine) : L_2TAG_PACKET_10_0_2 cpu s =
    L_2TAG_PACKET_6_0_2 cpu (L_2TAG_PACKET_10_0_2_1 cpu s) := rfl

theorem exp_L_2TAG_PACKET_7_0_2_eq (cpu : Cpu) (s : Machine) : L_2TAG_PACKET_7_0_2 cpu s =
    L_2TAG_PACKET_6_0_2 cpu (L_2TAG_PACKET_7_0_2_1 cpu s) := rfl

theorem exp_L_2TAG_PACKET_8_0_2_eq (cpu : Cpu) (s : Machine) : L_2TAG_PACKET_8_0_2 cpu s =
    if cc_aboveEqual (L_2TAG_PACKET_8_0_2_1 cpu s) then L_2TAG_PACKET_9_0_2 cpu (L_2TAG_PACKET_8_0_2_1 cpu s) else
    if cc_aboveEqual (L_2TAG_PACKET_8_0_2_2 cpu (L_2TAG_PACKET_8_0_2_1 cpu s)) then L_2TAG_PACKET_10_0_2 cpu (L_2TAG_PACKET_8_0_2_2 cpu (L_2TAG_PACKET_8_0_2_1 cpu s)) else
    L_2TAG_PACKET_7_0_2 cpu (L_2TAG_PACKET_8_0_2_3 cpu (L_2TAG_PACKET_8_0_2_2 cpu (L_2TAG_PACKET_8_0_2_1 cpu s))) := rfl

theorem exp_L_2TAG_PACKET_0_0_2_eq (cpu : Cpu) (s : Machine) : L_2TAG_PACKET_0_0_2 cpu s =
    if cc_aboveEqual (L_2TAG_PACKET_0_0_2_1 cpu s) then L_2TAG_PACKET_8_0_2 cpu (L_2TAG_PACKET_0_0_2_1 cpu s) else
    B1_5 cpu (L_2TAG_PACKET_0_0_2_2 cpu (L_2TAG_PACKET_0_0_2_1 cpu s)) := rfl

theorem exp_L_2TAG_PACKET_2_0_2_eq (cpu : Cpu) (s : Machine) : L_2TAG_PACKET_2_0_2 cpu s =
    L_2TAG_PACKET_6_0_2 cpu (L_2TAG_PACKET_2_0_2_1 cpu s) := rfl

theorem exp_L_2TAG_PACKET_3_0_2_eq (cpu : Cpu) (s : Machine) : L_2TAG_PACKET_3_0_2 cpu s =
    if cc_aboveEqual (L_2TAG_PACKET_3_0_2_1 cpu s) then L_2TAG_PACKET_7_0_2 cpu (L_2TAG_PACKET_3_0_2_1 cpu s) else
    B1_5 cpu (L_2TAG_PACKET_3_0_2_2 cpu (L_2TAG_PACKET_3_0_2_1 cpu s)) := rfl

theorem exp_L_2TAG_PACKET_4_0_2_eq (cpu : Cpu) (s : Machine) : L_2TAG_PACKET_4_0_2 cpu s =
    B1_5 cpu (L_2TAG_PACKET_4_0_2_1 cpu s) := rfl

theorem exp_L_2TAG_PACKET_5_0_2_eq (cpu : Cpu) (s : Machine) : L_2TAG_PACKET_5_0_2 cpu s =
    L_2TAG_PACKET_6_0_2 cpu (L_2TAG_PACKET_5_0_2_1 cpu s) := rfl

theorem exp_L_2TAG_PACKET_1_0_2_eq (cpu : Cpu) (s : Machine) : L_2TAG_PACKET_1_0_2 cpu s =
    if cc_greater (L_2TAG_PACKET_1_0_2_1 cpu s) then L_2TAG_PACKET_2_0_2 cpu (L_2TAG_PACKET_1_0_2_1 cpu s) else
    if cc_greaterEqual (L_2TAG_PACKET_1_0_2_2 cpu (L_2TAG_PACKET_1_0_2_1 cpu s)) then L_2TAG_PACKET_3_0_2 cpu (L_2TAG_PACKET_1_0_2_2 cpu (L_2TAG_PACKET_1_0_2_1 cpu s)) else
    if cc_equal (L_2TAG_PACKET_1_0_2_3 cpu (L_2TAG_PACKET_1_0_2_2 cpu (L_2TAG_PACKET_1_0_2_1 cpu s))) then L_2TAG_PACKET_4_0_2 cpu (L_2TAG_PACKET_1_0_2_3 cpu (L_2TAG_PACKET_1_0_2_2 cpu (L_2TAG_PACKET_1_0_2_1 cpu s))) else
    if cc_equal (L_2TAG_PACKET_1_0_2_4 cpu (L_2TAG_PACKET_1_0_2_3 cpu (L_2TAG_PACKET_1_0_2_2 cpu (L_2TAG_PACKET_1_0_2_1 cpu s)))) then L_2TAG_PACKET_5_0_2 cpu (L_2TAG_PACKET_1_0_2_4 cpu (L_2TAG_PACKET_1_0_2_3 cpu (L_2TAG_PACKET_1_0_2_2 cpu (L_2TAG_PACKET_1_0_2_1 cpu s)))) else
    B1_5 cpu (L_2TAG_PACKET_1_0_2_5 cpu (L_2TAG_PACKET_1_0_2_4 cpu (L_2TAG_PACKET_1_0_2_3 cpu (L_2TAG_PACKET_1_0_2_2 cpu (L_2TAG_PACKET_1_0_2_1 cpu s))))) := rfl

theorem exp_start_eq (cpu : Cpu) (s : Machine) : start cpu s =
    if cc_aboveEqual (start_1 cpu s) then L_2TAG_PACKET_0_0_2 cpu (start_1 cpu s) else
    if cc_above (start_2 cpu (start_1 cpu s)) then L_2TAG_PACKET_1_0_2 cpu (start_2 cpu (start_1 cpu s)) else
    B1_5 cpu (start_3 cpu (start_2 cpu (start_1 cpu s))) := rfl

theorem exp_entry_eq (cpu : Cpu) (s : Machine) : entry cpu s =
    start cpu (entry_1 cpu s) := rfl

end fast_exp

end MacroAssembler

namespace MacroAssembler
open XReg GReg

namespace fast_log

theorem log_B1_5_eq (cpu : Cpu) (s : Machine) : B1_5 cpu s =
    (B1_5_1 cpu s) := rfl

theorem log_B1_3_eq (cpu : Cpu) (s : Machine) : B1_3 cpu s =
    B1_5 cpu (B1_3_1 cpu s) := rfl

theorem log_L_2TAG_PACKET_8_0_2_eq (cpu : Cpu) (s : Machine) : L_2TAG_PACKET_8_0_2 cpu s =
    B1_3 cpu (L_2TAG_PACKET_8_0_2_1 cpu s) := rfl

theorem log_L_2TAG_PACKET_7_0_2_eq (cpu : Cpu) (s : Machine) : L_2TAG_PACKET_7_0_2 cpu s =
    L_2TAG_PACKET_8_0_2 cpu (L_2TAG_PACKET_7_0_2_1 cpu s) := rfl

theorem log_L_2TAG_PACKET_6_0_2_eq (cpu : Cpu) (s : Machine) : L_2TAG_PACKET_6_0_2 cpu s =
    L_2TAG_PACKET_8_0_2 cpu (L_2TAG_PACKET_6_0_2_1 cpu s) := rfl

theorem log_L_2TAG_PACKET_4_0_2_eq (cpu : Cpu) (s : Machine) : L_2TAG_PACKET_4_0_2 cpu s =
    B1_5 cpu (L_2TAG_PACKET_4_0_2_1 cpu s) := rfl

theorem log_L_2TAG_PACKET_5_0_2_eq (cpu : Cpu) (s : Machine) : L_2TAG_PACKET_5_0_2 cpu s =
    if cc_above (L_2TAG_PACKET_5_0_2_1 cpu s) then L_2TAG_PACKET_4_0_2 cpu (L_2TAG_PACKET_5_0_2_1 cpu s) else
    if cc_above (L_2TAG_PACKET_5_0_2_2 cpu (L_2TAG_PACKET_5_0_2_1 cpu s)) then L_2TAG_PACKET_4_0_2 cpu (L_2TAG_PACKET_5_0_2_2 cpu (L_2TAG_PACKET_5_0_2_1 cpu s)) else
    L_2TAG_PACKET_6_0_2 cpu (L_2TAG_PACKET_5_0_2_3 cpu (L_2TAG_PACKET_5_0_2_2 cpu (L_2TAG_PACKET_5_0_2_1 cpu s))) := rfl

theorem log_L_2TAG_PACKET_2_0_2_eq (cpu : Cpu) (s : Machine) : L_2TAG_PACKET_2_0_2 cpu s =
    if cc_aboveEqual (L_2TAG_PACKET_2_0_2_1 cpu s) then L_2TAG_PACKET_5_0_2 cpu (L_2TAG_PACKET_2_0_2_1 cpu s) else
    if cc_equal (L_2TAG_PACKET_2_0_2_2 cpu (L_2TAG_PACKET_2_0_2_1 cpu s)) then L_2TAG_PACKET_7_0_2 cpu (L_2TAG_PACKET_2_0_2_2 cpu (L_2TAG_PACKET_2_0_2_1 cpu s)) else
    L_2TAG_PACKET_6_0_2 cpu (L_2TAG_PACKET_2_0_2_3 cpu (L_2TAG_PACKET_2_0_2_2 cpu (L_2TAG_PACKET_2_0_2_1 cpu s))) := rfl

theorem log_L_2TAG_PACKET_1_0_2_eq (cpu : Cpu) (s : Machine) : L_2TAG_PACKET_1_0_2 cpu s =
    B1_5 cpu (L_2TAG_PACKET_1_0_2_1 cpu s) := rfl

theorem log_L_2TAG_PACKET_3_0_2_eq (cpu : Cpu) (s : Machine) : L_2TAG_PACKET_3_0_2 cpu s =
    if cc_equal (L_2TAG_PACKET_3_0_2_1 cpu s) then L_2TAG_PACKET_7_0_2 cpu (L_2TAG_PACKET_3_0_2_1 cpu s) else
    L_2TAG_PACKET_1_0_2 cpu (L_2TAG_PACKET_3_0_2_2 cpu (L_2TAG_PACKET_3_0_2_1 cpu s)) := rfl

theorem log_L_2TAG_PACKET_0_0_2_eq (cpu : Cpu) (s : Machine) : L_2TAG_PACKET_0_0_2 cpu s =
    if cc_aboveEqual (L_2TAG_PACKET_0_0_2_1 cpu s) then L_2TAG_PACKET_2_0_2 cpu (L_2TAG_PACKET_0_0_2_1 cpu s) else
    if cc_below (L_2TAG_PACKET_0_0_2_2 cpu (L_2TAG_PACKET_0_0_2_1 cpu s)) then L_2TAG_PACKET_3_0_2 cpu (L_2TAG_PACKET_0_0_2_2 cpu (L_2TAG_PACKET_0_0_2_1 cpu s)) else
    L_2TAG_PACKET_4_0_2 cpu (L_2TAG_PACKET_0_0_2_3 cpu (L_2TAG_PACKET_0_0_2_2 cpu (L_2TAG_PACKET_0_0_2_1 cpu s))) := rfl

theorem log_start_eq (cpu : Cpu) (s : Machine) : start cpu s =
    if cc_aboveEqual (start_1 cpu s) then L_2TAG_PACKET_0_0_2 cpu (start_1 cpu s) else
    L_2TAG_PACKET_1_0_2 cpu (start_2 cpu (start_1 cpu s)) := rfl

theorem log_entry_eq (cpu : Cpu) (s : Machine) : entry cpu s =
    start cpu (entry_1 cpu s) := rfl

end fast_log

end MacroAssembler

namespace MacroAssembler
open XReg GReg

namespace fast_pow

theorem pow_B1_5_eq (cpu : Cpu) (s : Machine) : B1_5 cpu s =
    (B1_5_1 cpu s) := rfl

theorem pow_L_2TAG_PACKET_56_0_2_eq (cpu : Cpu) (s : Machine) : L_2TAG_PACKET_56_0_2 cpu s =
    B1_5 cpu (L_2TAG_PACKET_56_0_2_1 cpu s) := rfl

theorem pow_B1_3_eq (cpu : Cpu) (s : Machine) : B1_3 cpu s =
    L_2TAG_PACKET_56_0_2 cpu (B1_3_1 cpu s) := rfl

theorem pow_L_2TAG_PACKET_17_0_2_eq (cpu : Cpu) (s : Machine) : L_2TAG_PACKET_17_0_2 cpu s =
    B1_3 cpu (L_2TAG_PACKET_17_0_2_1 cpu s) := rfl

theorem pow_L_2TAG_PACKET_44_0_2_eq (cpu : Cpu) (s : Machine) : L_2TAG_PACKET_44_0_2 cpu s =
    L_2TAG_PACKET_17_0_2 cpu (L_2TAG_PACKET_44_0_2_1 cpu s) := rfl

theorem pow_L_2TAG_PACKET_22_0_2_eq (cpu : Cpu) (s : Machine) : L_2TAG_PACKET_22_0_2 cpu s =
    B1_5 cpu (L_2TAG_PACKET_22_0_2_1 cpu s) := rfl

theorem pow_L_2TAG_PACKET_41_0_2_eq (cpu : Cpu) (s : Machine) : L_2TAG_PACKET_41_0_2 cpu s =
    if cc_equal (L_2TAG_PACKET_41_0_2_1 cpu s) then L_2TAG_PACKET_22_0_2 cpu (L_2TAG_PACKET_41_0_2_1 cpu s) else
    L_2TAG_PACKET_44_0_2 cpu (L_2TAG_PACKET_41_0_2_2 cpu (L_2TAG_PACKET_41_0_2_1 cpu s)) := rfl

theorem pow_L_2TAG_PACKET_43_0_2_eq (cpu : Cpu) (s : Machine) : L_2TAG_PACKET_43_0_2 cpu s =
    if cc_notEqual (L_2TAG_PACKET_43_0_2_1 cpu s) then L_2TAG_PACKET_44_0_2 cpu (L_2TAG_PACKET_43_0_2_1 cpu s) else
    B1_5 cpu (L_2TAG_PACKET_43_0_2_2 cpu (L_2TAG_PACKET_43_0_2_1 cpu s)) := rfl

theorem pow_L_2TAG_PACKET_42_0_2_eq (cpu : Cpu) (s : Machine) : L_2TAG_PACKET_42_0_2 cpu s =
    if cc_notEqual (L_2TAG_PACKET_42_0_2_1 cpu s) then L_2TAG_PACKET_43_0_2 cpu (L_2TAG_PACKET_42_0_2_1 cpu s) else
    L_2TAG_PACKET_41_0_2 cpu (L_2TAG_PACKET_42_0_2_2 cpu (L_2TAG_PACKET_42_0_2_1 cpu s)) := rfl

theorem pow_L_2TAG_PACKET_39_0_2_eq (cpu : Cpu) (s : Machine) : L_2TAG_PACKET_39_0_2 cpu s =
    L_2TAG_PACKET_17_0_2 cpu (L_2TAG_PACKET_39_0_2_1 cpu s) := rfl

theorem pow_L_2TAG_PACKET_40_0_2_eq (cpu : Cpu) (s : Machine) : L_2TAG_PACKET_40_0_2 cpu s =
    if cc_equal (L_2TAG_PACKET_40_0_2_1 cpu s) then L_2TAG_PACKET_39_0_2 cpu (L_2TAG_PACKET_40_0_2_1 cpu s) else
    if cc_above (L_2TAG_PACKET_40_0_2_2 cpu (L_2TAG_PACKET_40_0_2_1 cpu s)) then L_2TAG_PACKET_41_0_2 cpu (L_2TAG_PACKET_40_0_2_2 cpu (L_2TAG_PACKET_40_0_2_1 cpu s)) else
    if cc_equal (L_2TAG_PACKET_40_0_2_3 cpu (L_2TAG_PACKET_40_0_2_2 cpu (L_2TAG_PACKET_40_0_2_1 cpu s))) then L_2TAG_PACKET_42_0_2 cpu (L_2TAG_PACKET_40_0_2_3 cpu (L_2TAG_PACKET_40_0_2_2 cpu (L_2TAG_PACKET_40_0_2_1 cpu s))) else
    if cc_below (L_2TAG_PACKET_40_0_2_4 cpu (L_2TAG_PACKET_40_0_2_3 cpu (L_2TAG_PACKET_40_0_2_2 cpu (L_2TAG_PACKET_40_0_2_1 cpu s)))) then L_2TAG_PACKET_41_0_2 cpu (L_2TAG_PACKET_40_0_2_4 cpu (L_2TAG_PACKET_40_0_2_3 cpu (L_2TAG_PACKET_40_0_2_2 cpu (L_2TAG_PACKET_40_0_2_1 cpu s)))) else
    if cc_notEqual (L_2TAG_PACKET_40_0_2_5 cpu (L_2TAG_PACKET_40_0_2_4 cpu (L_2TAG_PACKET_40_0_2_3 cpu (L_2TAG_PACKET_40_0_2_2 cpu (L_2TAG_PACKET_40_0_2_1 cpu s))))) then L_2TAG_PACKET_41_0_2 cpu (L_2TAG_PACKET_40_0_2_5 cpu (L_2TAG_PACKET_40_0_2_4 cpu (L_2TAG_PACKET_40_0_2_3 cpu (L_2TAG_PACKET_40_0_2_2 cpu (L_2TAG_PACKET_40_0_2_1 cpu s))))) else
    if cc_equal (L_2TAG_PACKET_40_0_2_6 cpu (L_2TAG_PACKET_40_0_2_5 cpu (L_2TAG_PACKET_40_0_2_4 cpu (L_2TAG_PACKET_40_0_2_3 cpu (L_2TAG_PACKET_40_0_2_2 cpu (L_2TAG_PACKET_40_0_2_1 cpu s)))))) then L_2TAG_PACKET_41_0_2 cpu (L_2TAG_PACKET_40_0_2_6 cpu (L_2TAG_PACKET_40_0_2_5 cpu (L_2TAG_PACKET_40_0_2_4 cpu (L_2TAG_PACKET_40_0_2_3 cpu (L_2TAG_PACKET_40_0_2_2 cpu (L_2TAG_PACKET_40_0_2_1 cpu s)))))) else
    L_2TAG_PACKET_43_0_2 cpu (L_2TAG_PACKET_40_0_2_7 cpu (L_2TAG_PACKET_40_0_2_6 cpu (L_2TAG_PACKET_40_0_2_5 cpu (L_2TAG_PACKET_40_0_2_4 cpu (L_2TAG_PACKET_40_0_2_3 cpu (L_2TAG_PACKET_40_0_2_2 cpu (L_2TAG_PACKET_40_0_2_1 cpu s))))))) := rfl

theorem pow_L_2TAG_PACKET_18_0_2_eq (cpu : Cpu) (s : Machine) : L_2TAG_PACKET_18_0_2 cpu s =
    B1_5 cpu (L_2TAG_PACKET_18_0_2_1 cpu s) := rfl

theorem pow_L_2TAG_PACKET_9_0_2_eq (cpu : Cpu) (s : Machine) : L_2TAG_PACKET_9_0_2 cpu s =
    if cc_notEqual (L_2TAG_PACKET_9_0_2_1 cpu s) then L_2TAG_PACKET_40_0_2 cpu (L_2TAG_PACKET_9_0_2_1 cpu s) else
    if cc_notEqual (L_2TAG_PACKET_9_0_2_2 cpu (L_2TAG_PACKET_9_0_2_1 cpu s)) then L_2TAG_PACKET_18_0_2 cpu (L_2TAG_PACKET_9_0_2_2 cpu (L_2TAG_PACKET_9_0_2_1 cpu s)) else
    L_2TAG_PACKET_40_0_2 cpu (L_2TAG_PACKET_9_0_2_3 cpu (L_2TAG_PACKET_9_0_2_2 cpu (L_2TAG_PACKET_9_0_2_1 cpu s))) := rfl

theorem pow_L_2TAG_PACKET_37_0_2_eq (cpu : Cpu) (s : Machine) : L_2TAG_PACKET_37_0_2 cpu s =
    B1_5 cpu (L_2TAG_PACKET_37_0_2_1 cpu s) := rfl

theorem pow_L_2TAG_PACKET_48_0_2_eq (cpu : Cpu) (s : Machine) : L_2TAG_PACKET_48_0_2 cpu s =
    L_2TAG_PACKET_17_0_2 cpu (L_2TAG_PACKET_48_0_2_1 cpu s) := rfl

theorem pow_L_2TAG_PACKET_50_0_2_eq (cpu : Cpu) (s : Machine) : L_2TAG_PACKET_50_0_2 cpu s =
    L_2TAG_PACKET_48_0_2 cpu (L_2TAG_PACKET_50_0_2_1 cpu s) := rfl

theorem pow_L_2TAG_PACKET_49_0_2_eq (cpu : Cpu) (s : Machine) : L_2TAG_PACKET_49_0_2 cpu s =
    L_2TAG_PACKET_50_0_2 cpu (L_2TAG_PACKET_49_0_2_1 cpu s) := rfl

theorem pow_L_2TAG_PACKET_13_0_2_eq (cpu : Cpu) (s : Machine) : L_2TAG_PACKET_13_0_2 cpu s =
    if cc_lessEqual (L_2TAG_PACKET_13_0_2_1 cpu s) then L_2TAG_PACKET_49_0_2 cpu (L_2TAG_PACKET_13_0_2_1 cpu s) else
    if cc_above (L_2TAG_PACKET_13_0_2_2 cpu (L_2TAG_PACKET_13_0_2_1 cpu s)) then L_2TAG_PACKET_50_0_2 cpu (L_2TAG_PACKET_13_0_2_2 cpu (L_2TAG_PACKET_13_0_2_1 cpu s)) else
    L_2TAG_PACKET_49_0_2 cpu (L_2TAG_PACKET_13_0_2_3 cpu (L_2TAG_PACKET_13_0_2_2 cpu (L_2TAG_PACKET_13_0_2_1 cpu s))) := rfl

theorem pow_L_2TAG_PACKET_14_0_2_eq (cpu : Cpu) (s : Machine) : L_2TAG_PACKET_14_0_2 cpu s =
    L_2TAG_PACKET_17_0_2 cpu (L_2TAG_PACKET_14_0_2_1 cpu s) := rfl

theorem pow_L_2TAG_PACKET_55_0_2_eq (cpu : Cpu) (s : Machine) : L_2TAG_PACKET_55_0_2 cpu s =
    B1_5 cpu (L_2TAG_PACKET_55_0_2_1 cpu s) := rfl

theorem pow_L_2TAG_PACKET_54_0_2_eq (cpu : Cpu) (s : Machine) : L_2TAG_PACKET_54_0_2 cpu s =
    if cc_equal (L_2TAG_PACKET_54_0_2_1 cpu s) then L_2TAG_PACKET_55_0_2 cpu (L_2TAG_PACKET_54_0_2_1 cpu s) else
    B1_5 cpu (L_2TAG_PACKET_54_0_2_2 cpu (L_2TAG_PACKET_54_0_2_1 cpu s)) := rfl

theorem pow_L_2TAG_PACKET_53_0_2_eq (cpu : Cpu) (s : Machine) : L_2TAG_PACKET_53_0_2 cpu s =
    if cc_equal (L_2TAG_PACKET_53_0_2_1 cpu s) then L_2TAG_PACKET_54_0_2 cpu (L_2TAG_PACKET_53_0_2_1 cpu s) else
    B1_5 cpu (L_2TAG_PACKET_53_0_2_2 cpu (L_2TAG_PACKET_53_0_2_1 cpu s)) := rfl

theorem pow_L_2TAG_PACKET_45_0_2_eq (cpu : Cpu) (s : Machine) : L_2TAG_PACKET_45_0_2 cpu s =
    if cc_notEqual (L_2TAG_PACKET_45_0_2_1 cpu s) then L_2TAG_PACKET_53_0_2 cpu (L_2TAG_PACKET_45_0_2_1 cpu s) else
    B1_5 cpu (L_2TAG_PACKET_45_0_2_2 cpu (L_2TAG_PACKET_45_0_2_1 cpu s)) := rfl

theorem pow_L_2TAG_PACKET_46_0_2_eq (cpu : Cpu) (s : Machine) : L_2TAG_PACKET_46_0_2 cpu s =
    if cc_equal (L_2TAG_PACKET_46_0_2_1 cpu s) then L_2TAG_PACKET_48_0_2 cpu (L_2TAG_PACKET_46_0_2_1 cpu s) else
    L_2TAG_PACKET_48_0_2 cpu (L_2TAG_PACKET_46_0_2_2 cpu (L_2TAG_PACKET_46_0_2_1 cpu s)) := rfl

theorem pow_L_2TAG_PACKET_47_0_2_eq (cpu : Cpu) (s : Machine) : L_2TAG_PACKET_47_0_2 cpu s =
    L_2TAG_PACKET_14_0_2 cpu (L_2TAG_PACKET_47_0_2_1 cpu s) := rfl

theorem pow_L_2TAG_PACKET_12_0_2_eq (cpu : Cpu) (s : Machine) : L_2TAG_PACKET_12_0_2 cpu s =
    if cc_equal (L_2TAG_PACKET_12_0_2_1 cpu s) then L_2TAG_PACKET_45_0_2 cpu (L_2TAG_PACKET_12_0_2_1 cpu s) else
    if cc_notEqual (L_2TAG_PACKET_12_0_2_2 cpu (L_2TAG_PACKET_12_0_2_1 cpu s)) then L_2TAG_PACKET_46_0_2 cpu (L_2TAG_PACKET_12_0_2_2 cpu (L_2TAG_PACKET_12_0_2_1 cpu s)) else
    L_2TAG_PACKET_47_0_2 cpu (L_2TAG_PACKET_12_0_2_3 cpu (L_2TAG_PACKET_12_0_2_2 cpu (L_2TAG_PACKET_12_0_2_1 cpu s))) := rfl

theorem pow_L_2TAG_PACKET_38_0_2_eq (cpu : Cpu) (s : Machine) : L_2TAG_PACKET_38_0_2 cpu s =
    L_2TAG_PACKET_37_0_2 cpu (L_2TAG_PACKET_38_0_2_1 cpu s) := rfl

theorem pow_L_2TAG_PACKET_11_0_2_eq (cpu : Cpu) (s : Machine) : L_2TAG_PACKET_11_0_2 cpu s =
    if cc_less (L_2TAG_PACKET_11_0_2_1 cpu s) then L_2TAG_PACKET_38_0_2 cpu (L_2TAG_PACKET_11_0_2_1 cpu s) else
    B1_5 cpu (L_2TAG_PACKET_11_0_2_2 cpu (L_2TAG_PACKET_11_0_2_1 cpu s)) := rfl

theorem pow_L_2TAG_PACKET_5_0_2_eq (cpu : Cpu) (s : Machine) : L_2TAG_PACKET_5_0_2 cpu s =
    if cc_less (L_2TAG_PACKET_5_0_2_1 cpu s) then L_2TAG_PACKET_11_0_2 cpu (L_2TAG_PACKET_5_0_2_1 cpu s) else
    if cc_aboveEqual (L_2TAG_PACKET_5_0_2_2 cpu (L_2TAG_PACKET_5_0_2_1 cpu s)) then L_2TAG_PACKET_12_0_2 cpu (L_2TAG_PACKET_5_0_2_2 cpu (L_2TAG_PACKET_5_0_2_1 cpu s)) else
    if cc_above (L_2TAG_PACKET_5_0_2_3 cpu (L_2TAG_PACKET_5_0_2_2 cpu (L_2TAG_PACKET_5_0_2_1 cpu s))) then L_2TAG_PACKET_12_0_2 cpu (L_2TAG_PACKET_5_0_2_3 cpu (L_2TAG_PACKET_5_0_2_2 cpu (L_2TAG_PACKET_5_0_2_1 cpu s))) else
    if cc_equal (L_2TAG_PACKET_5_0_2_4 cpu (L_2TAG_PACKET_5_0_2_3 cpu (L_2TAG_PACKET_5_0_2_2 cpu (L_2TAG_PACKET_5_0_2_1 cpu s)))) then L_2TAG_PACKET_13_0_2 cpu (L_2TAG_PACKET_5_0_2_4 cpu (L_2TAG_PACKET_5_0_2_3 cpu (L_2TAG_PACKET_5_0_2_2 cpu (L_2TAG_PACKET_5_0_2_1 cpu s)))) else
    if cc_equal (L_2TAG_PACKET_5_0_2_5 cpu (L_2TAG_PACKET_5_0_2_4 cpu (L_2TAG_PACKET_5_0_2_3 cpu (L_2TAG_PACKET_5_0_2_2 cpu (L_2TAG_PACKET_5_0_2_1 cpu s))))) then L_2TAG_PACKET_14_0_2 cpu (L_2TAG_PACKET_5_0_2_5 cpu (L_2TAG_PACKET_5_0_2_4 cpu (L_2TAG_PACKET_5_0_2_3 cpu (L_2TAG_PACKET_5_0_2_2 cpu (L_2TAG_PACKET_5_0_2_1 cpu s))))) else
    B1_5 cpu (L_2TAG_PACKET_5_0_2_6 cpu (L_2TAG_PACKET_5_0_2_5 cpu (L_2TAG_PACKET_5_0_2_4 cpu (L_2TAG_PACKET_5_0_2_3 cpu (L_2TAG_PACKET_5_0_2_2 cpu (L_2TAG_PACKET_5_0_2_1 cpu s)))))) := rfl

theorem pow_L_2TAG_PACKET_4_0_2_eq (cpu : Cpu) (s : Machine) : L_2TAG_PACKET_4_0_2 cpu s =
    if cc_aboveEqual (L_2TAG_PACKET_4_0_2_1 cpu s) then L_2TAG_PACKET_5_0_2 cpu (L_2TAG_PACKET_4_0_2_1 cpu s) else
    B1_5 cpu (L_2TAG_PACKET_4_0_2_2 cpu (L_2TAG_PACKET_4_0_2_1 cpu s)) := rfl

theorem pow_L_2TAG_PACKET_8_0_2_eq (cpu : Cpu) (s : Machine) : L_2TAG_PACKET_8_0_2 cpu s =
    if cc_equal (L_2TAG_PACKET_8_0_2_1 cpu s) then L_2TAG_PACKET_9_0_2 cpu (L_2TAG_PACKET_8_0_2_1 cpu s) else
    L_2TAG_PACKET_4_0_2 cpu (L_2TAG_PACKET_8_0_2_2 cpu (L_2TAG_PACKET_8_0_2_1 cpu s)) := rfl

theorem pow_L_2TAG_PACKET_51_0_2_eq (cpu : Cpu) (s : Machine) : L_2TAG_PACKET_51_0_2 cpu s =
    if cc_equal (L_2TAG_PACKET_51_0_2_1 cpu s) then L_2TAG_PACKET_47_0_2 cpu (L_2TAG_PACKET_51_0_2_1 cpu s) else
    L_2TAG_PACKET_46_0_2 cpu (L_2TAG_PACKET_51_0_2_2 cpu (L_2TAG_PACKET_51_0_2_1 cpu s)) := rfl

theorem pow_L_2TAG_PACKET_52_0_2_eq (cpu : Cpu) (s : Machine) : L_2TAG_PACKET_52_0_2 cpu s =
    B1_5 cpu (L_2TAG_PACKET_52_0_2_1 cpu s) := rfl

theorem pow_L_2TAG_PACKET_3_0_2_eq (cpu : Cpu) (s : Machine) : L_2TAG_PACKET_3_0_2 cpu s =
    L_2TAG_PACKET_4_0_2 cpu (L_2TAG_PACKET_3_0_2_1 cpu s) := rfl

theorem pow_L_2TAG_PACKET_2_0_2_eq (cpu : Cpu) (s : Machine) : L_2TAG_PACKET_2_0_2 cpu s =
    if cc_less (L_2TAG_PACKET_2_0_2_1 cpu s) then L_2TAG_PACKET_3_0_2 cpu (L_2TAG_PACKET_2_0_2_1 cpu s) else
    if cc_equal (L_2TAG_PACKET_2_0_2_2 cpu (L_2TAG_PACKET_2_0_2_1 cpu s)) then L_2TAG_PACKET_45_0_2 cpu (L_2TAG_PACKET_2_0_2_2 cpu (L_2TAG_PACKET_2_0_2_1 cpu s)) else
    if cc_aboveEqual (L_2TAG_PACKET_2_0_2_3 cpu (L_2TAG_PACKET_2_0_2_2 cpu (L_2TAG_PACKET_2_0_2_1 cpu s))) then L_2TAG_PACKET_51_0_2 cpu (L_2TAG_PACKET_2_0_2_3 cpu (L_2TAG_PACKET_2_0_2_2 cpu (L_2TAG_PACKET_2_0_2_1 cpu s))) else
    if cc_above (L_2TAG_PACKET_2_0_2_4 cpu (L_2TAG_PACKET_2_0_2_3 cpu (L_2TAG_PACKET_2_0_2_2 cpu (L_2TAG_PACKET_2_0_2_1 cpu s)))) then L_2TAG_PACKET_12_0_2 cpu (L_2TAG_PACKET_2_0_2_4 cpu (L_2TAG_PACKET_2_0_2_3 cpu (L_2TAG_PACKET_2_0_2_2 cpu (L_2TAG_PACKET_2_0_2_1 cpu s)))) else
    if cc_equal (L_2TAG_PACKET_2_0_2_5 cpu (L_2TAG_PACKET_2_0_2_4 cpu (L_2TAG_PACKET_2_0_2_3 cpu (L_2TAG_PACKET_2_0_2_2 cpu (L_2TAG_PACKET_2_0_2_1 cpu s))))) then L_2TAG_PACKET_13_0_2 cpu (L_2TAG_PACKET_2_0_2_5 cpu (L_2TAG_PACKET_2_0_2_4 cpu (L_2TAG_PACKET_2_0_2_3 cpu (L_2TAG_PACKET_2_0_2_2 cpu (L_2TAG_PACKET_2_0_2_1 cpu s))))) else
    if cc_equal (L_2TAG_PACKET_2_0_2_6 cpu (L_2TAG_PACKET_2_0_2_5 cpu (L_2TAG_PACKET_2_0_2_4 cpu (L_2TAG_PACKET_2_0_2_3 cpu (L_2TAG_PACKET_2_0_2_2 cpu (L_2TAG_PACKET_2_0_2_1 cpu s)))))) then L_2TAG_PACKET_14_0_2 cpu (L_2TAG_PACKET_2_0_2_6 cpu (L_2TAG_PACKET_2_0_2_5 cpu (L_2TAG_PACKET_2_0_2_4 cpu (L_2TAG_PACKET_2_0_2_3 cpu (L_2TAG_PACKET_2_0_2_2 cpu (L_2TAG_PACKET_2_0_2_1 cpu s)))))) else
    L_2TAG_PACKET_52_0_2 cpu (L_2TAG_PACKET_2_0_2_7 cpu (L_2TAG_PACKET_2_0_2_6 cpu (L_2TAG_PACKET_2_0_2_5 cpu (L_2TAG_PACKET_2_0_2_4 cpu (L_2TAG_PACKET_2_0_2_3 cpu (L_2TAG_PACKET_2_0_2_2 cpu (L_2TAG_PACKET_2_0_2_1 cpu s))))))) := rfl

theorem pow_L_2TAG_PACKET_1_0_2_eq (cpu : Cpu) (s : Machine) : L_2TAG_PACKET_1_0_2 cpu s =
    if cc_belowEqual (L_2TAG_PACKET_1_0_2_1 cpu s) then L_2TAG_PACKET_2_0_2 cpu (L_2TAG_PACKET_1_0_2_1 cpu s) else
    L_2TAG_PACKET_3_0_2 cpu (L_2TAG_PACKET_1_0_2_2 cpu (L_2TAG_PACKET_1_0_2_1 cpu s)) := rfl

theorem pow_L_2TAG_PACKET_35_0_2_eq (cpu : Cpu) (s : Machine) : L_2TAG_PACKET_35_0_2 cpu s =
    if cc_less (L_2TAG_PACKET_35_0_2_1 cpu s) then L_2TAG_PACKET_8_0_2 cpu (L_2TAG_PACKET_35_0_2_1 cpu s) else
    L_2TAG_PACKET_1_0_2 cpu (L_2TAG_PACKET_35_0_2_2 cpu (L_2TAG_PACKET_35_0_2_1 cpu s)) := rfl

theorem pow_L_2TAG_PACKET_34_0_2_eq (cpu : Cpu) (s : Machine) : L_2TAG_PACKET_34_0_2 cpu s =
    L_2TAG_PACKET_17_0_2 cpu (L_2TAG_PACKET_34_0_2_1 cpu s) := rfl

theorem pow_L_2TAG_PACKET_10_0_2_eq (cpu : Cpu) (s : Machine) : L_2TAG_PACKET_10_0_2 cpu s =
    if cc_equal (L_2TAG_PACKET_10_0_2_1 cpu s) then L_2TAG_PACKET_9_0_2 cpu (L_2TAG_PACKET_10_0_2_1 cpu s) else
    L_2TAG_PACKET_4_0_2 cpu (L_2TAG_PACKET_10_0_2_2 cpu (L_2TAG_PACKET_10_0_2_1 cpu s)) := rfl

theorem pow_L_2TAG_PACKET_36_0_2_eq (cpu : Cpu) (s : Machine) : L_2TAG_PACKET_36_0_2 cpu s =
    if cc_less (L_2TAG_PACKET_36_0_2_1 cpu s) then L_2TAG_PACKET_10_0_2 cpu (L_2TAG_PACKET_36_0_2_1 cpu s) else
    L_2TAG_PACKET_1_0_2 cpu (L_2TAG_PACKET_36_0_2_2 cpu (L_2TAG_PACKET_36_0_2_1 cpu s)) := rfl

theorem pow_L_2TAG_PACKET_33_0_2_eq (cpu : Cpu) (s : Machine) : L_2TAG_PACKET_33_0_2 cpu s =
    if cc_equal (L_2TAG_PACKET_33_0_2_1 cpu s) then L_2TAG_PACKET_35_0_2 cpu (L_2TAG_PACKET_33_0_2_1 cpu s) else
    L_2TAG_PACKET_36_0_2 cpu (L_2TAG_PACKET_33_0_2_2 cpu (L_2TAG_PACKET_33_0_2_1 cpu s)) := rfl

theorem pow_L_2TAG_PACKET_32_0_2_eq (cpu : Cpu) (s : Machine) : L_2TAG_PACKET_32_0_2 cpu s =
    if cc_above (L_2TAG_PACKET_32_0_2_1 cpu s) then L_2TAG_PACKET_33_0_2 cpu (L_2TAG_PACKET_32_0_2_1 cpu s) else
    if cc_notEqual (L_2TAG_PACKET_32_0_2_2 cpu (L_2TAG_PACKET_32_0_2_1 cpu s)) then L_2TAG_PACKET_34_0_2 cpu (L_2TAG_PACKET_32_0_2_2 cpu (L_2TAG_PACKET_32_0_2_1 cpu s)) else
    if cc_equal (L_2TAG_PACKET_32_0_2_3 cpu (L_2TAG_PACKET_32_0_2_2 cpu (L_2TAG_PACKET_32_0_2_1 cpu s))) then L_2TAG_PACKET_35_0_2 cpu (L_2TAG_PACKET_32_0_2_3 cpu (L_2TAG_PACKET_32_0_2_2 cpu (L_2TAG_PACKET_32_0_2_1 cpu s))) else
    L_2TAG_PACKET_36_0_2 cpu (L_2TAG_PACKET_32_0_2_4 cpu (L_2TAG_PACKET_32_0_2_3 cpu (L_2TAG_PACKET_32_0_2_2 cpu (L_2TAG_PACKET_32_0_2_1 cpu s)))) := rfl

theorem pow_L_2TAG_PACKET_31_0_2_eq (cpu : Cpu) (s : Machine) : L_2TAG_PACKET_31_0_2 cpu s =
    B1_5 cpu (L_2TAG_PACKET_31_0_2_1 cpu s) := rfl

theorem pow_L_2TAG_PACKET_30_0_2_eq (cpu : Cpu) (s : Machine) : L_2TAG_PACKET_30_0_2 cpu s =
    if cc_equal (L_2TAG_PACKET_30_0_2_1 cpu s) then L_2TAG_PACKET_31_0_2 cpu (L_2TAG_PACKET_30_0_2_1 cpu s) else
    B1_5 cpu (L_2TAG_PACKET_30_0_2_2 cpu (L_2TAG_PACKET_30_0_2_1 cpu s)) := rfl

theorem pow_L_2TAG_PACKET_29_0_2_eq (cpu : Cpu) (s : Machine) : L_2TAG_PACKET_29_0_2 cpu s =
    if cc_notEqual (L_2TAG_PACKET_29_0_2_1 cpu s) then L_2TAG_PACKET_30_0_2 cpu (L_2TAG_PACKET_29_0_2_1 cpu s) else
    if cc_notEqual (L_2TAG_PACKET_29_0_2_2 cpu (L_2TAG_PACKET_29_0_2_1 cpu s)) then L_2TAG_PACKET_30_0_2 cpu (L_2TAG_PACKET_29_0_2_2 cpu (L_2TAG_PACKET_29_0_2_1 cpu s)) else
    B1_5 cpu (L_2TAG_PACKET_29_0_2_3 cpu (L_2TAG_PACKET_29_0_2_2 cpu (L_2TAG_PACKET_29_0_2_1 cpu s))) := rfl

theorem pow_L_2TAG_PACKET_28_0_2_eq (cpu : Cpu) (s : Machine) : L_2TAG_PACKET_28_0_2 cpu s =
    if cc_equal (L_2TAG_PACKET_28_0_2_1 cpu s) then L_2TAG_PACKET_29_0_2 cpu (L_2TAG_PACKET_28_0_2_1 cpu s) else
    B1_5 cpu (L_2TAG_PACKET_28_0_2_2 cpu (L_2TAG_PACKET_28_0_2_1 cpu s)) := rfl

theorem pow_L_2TAG_PACKET_7_0_2_eq (cpu : Cpu) (s : Machine) : L_2TAG_PACKET_7_0_2 cpu s =
    if cc_equal (L_2TAG_PACKET_7_0_2_1 cpu s) then L_2TAG_PACKET_9_0_2 cpu (L_2TAG_PACKET_7_0_2_1 cpu s) else
    if cc_equal (L_2TAG_PACKET_7_0_2_2 cpu (L_2TAG_PACKET_7_0_2_1 cpu s)) then L_2TAG_PACKET_37_0_2 cpu (L_2TAG_PACKET_7_0_2_2 cpu (L_2TAG_PACKET_7_0_2_1 cpu s)) else
    if cc_equal (L_2TAG_PACKET_7_0_2_3 cpu (L_2TAG_PACKET_7_0_2_2 cpu (L_2TAG_PACKET_7_0_2_1 cpu s))) then L_2TAG_PACKET_28_0_2 cpu (L_2TAG_PACKET_7_0_2_3 cpu (L_2TAG_PACKET_7_0_2_2 cpu (L_2TAG_PACKET_7_0_2_1 cpu s))) else
    if cc_above (L_2TAG_PACKET_7_0_2_4 cpu (L_2TAG_PACKET_7_0_2_3 cpu (L_2TAG_PACKET_7_0_2_2 cpu (L_2TAG_PACKET_7_0_2_1 cpu s)))) then L_2TAG_PACKET_35_0_2 cpu (L_2TAG_PACKET_7_0_2_4 cpu (L_2TAG_PACKET_7_0_2_3 cpu (L_2TAG_PACKET_7_0_2_2 cpu (L_2TAG_PACKET_7_0_2_1 cpu s)))) else
    if cc_aboveEqual (L_2TAG_PACKET_7_0_2_5 cpu (L_2TAG_PACKET_7_0_2_4 cpu (L_2TAG_PACKET_7_0_2_3 cpu (L_2TAG_PACKET_7_0_2_2 cpu (L_2TAG_PACKET_7_0_2_1 cpu s))))) then L_2TAG_PACKET_32_0_2 cpu (L_2TAG_PACKET_7_0_2_5 cpu (L_2TAG_PACKET_7_0_2_4 cpu (L_2TAG_PACKET_7_0_2_3 cpu (L_2TAG_PACKET_7_0_2_2 cpu (L_2TAG_PACKET_7_0_2_1 cpu s))))) else
    if cc_below (L_2TAG_PACKET_7_0_2_6 cpu (L_2TAG_PACKET_7_0_2_5 cpu (L_2TAG_PACKET_7_0_2_4 cpu (L_2TAG_PACKET_7_0_2_3 cpu (L_2TAG_PACKET_7_0_2_2 cpu (L_2TAG_PACKET_7_0_2_1 cpu s)))))) then L_2TAG_PACKET_34_0_2 cpu (L_2TAG_PACKET_7_0_2_6 cpu (L_2TAG_PACKET_7_0_2_5 cpu (L_2TAG_PACKET_7_0_2_4 cpu (L_2TAG_PACKET_7_0_2_3 cpu (L_2TAG_PACKET_7_0_2_2 cpu (L_2TAG_PACKET_7_0_2_1 cpu s)))))) else
    if cc_notEqual (L_2TAG_PACKET_7_0_2_7 cpu (L_2TAG_PACKET_7_0_2_6 cpu (L_2TAG_PACKET_7_0_2_5 cpu (L_2TAG_PACKET_7_0_2_4 cpu (L_2TAG_PACKET_7_0_2_3 cpu (L_2TAG_PACKET_7_0_2_2 cpu (L_2TAG_PACKET_7_0_2_1 cpu s))))))) then L_2TAG_PACKET_34_0_2 cpu (L_2TAG_PACKET_7_0_2_7 cpu (L_2TAG_PACKET_7_0_2_6 cpu (L_2TAG_PACKET_7_0_2_5 cpu (L_2TAG_PACKET_7_0_2_4 cpu (L_2TAG_PACKET_7_0_2_3 cpu (L_2TAG_PACKET_7_0_2_2 cpu (L_2TAG_PACKET_7_0_2_1 cpu s))))))) else
    if cc_equal (L_2TAG_PACKET_7_0_2_8 cpu (L_2TAG_PACKET_7_0_2_7 cpu (L_2TAG_PACKET_7_0_2_6 cpu (L_2TAG_PACKET_7_0_2_5 cpu (L_2TAG_PACKET_7_0_2_4 cpu (L_2TAG_PACKET_7_0_2_3 cpu (L_2TAG_PACKET_7_0_2_2 cpu (L_2TAG_PACKET_7_0_2_1 cpu s)))))))) then L_2TAG_PACKET_35_0_2 cpu (L_2TAG_PACKET_7_0_2_8 cpu (L_2TAG_PACKET_7_0_2_7 cpu (L_2TAG_PACKET_7_0_2_6 cpu (L_2TAG_PACKET_7_0_2_5 cpu (L_2TAG_PACKET_7_0_2_4 cpu (L_2TAG_PACKET_7_0_2_3 cpu (L_2TAG_PACKET_7_0_2_2 cpu (L_2TAG_PACKET_7_0_2_1 cpu s)))))))) else
    L_2TAG_PACKET_36_0_2 cpu (L_2TAG_PACKET_7_0_2_9 cpu (L_2TAG_PACKET_7_0_2_8 cpu (L_2TAG_PACKET_7_0_2_7 cpu (L_2TAG_PACKET_7_0_2_6 cpu (L_2TAG_PACKET_7_0_2_5 cpu (L_2TAG_PACKET_7_0_2_4 cpu (L_2TAG_PACKET_7_0_2_3 cpu (L_2TAG_PACKET_7_0_2_2 cpu (L_2TAG_PACKET_7_0_2_1 cpu s))))))))) := rfl

theorem pow_L_2TAG_PACKET_19_0_2_eq (cpu : Cpu) (s : Machine) : L_2TAG_PACKET_19_0_2 cpu s =
    B1_5 cpu (L_2TAG_PACKET_19_0_2_1 cpu s) := rfl

theorem pow_L_2TAG_PACKET_24_0_2_eq (cpu : Cpu) (s : Machine) : L_2TAG_PACKET_24_0_2 cpu s =
    if cc_notEqual (L_2TAG_PACKET_24_0_2_1 cpu s) then L_2TAG_PACKET_22_0_2 cpu (L_2TAG_PACKET_24_0_2_1 cpu s) else
    B1_5 cpu (L_2TAG_PACKET_24_0_2_2 cpu (L_2TAG_PACKET_24_0_2_1 cpu s)) := rfl

theorem pow_L_2TAG_PACKET_27_0_2_eq (cpu : Cpu) (s : Machine) : L_2TAG_PACKET_27_0_2 cpu s =
    B1_5 cpu (L_2TAG_PACKET_27_0_2_1 cpu s) := rfl

theorem pow_L_2TAG_PACKET_25_0_2_eq (cpu : Cpu) (s : Machine) : L_2TAG_PACKET_25_0_2 cpu s =
    if cc_notEqual (L_2TAG_PACKET_25_0_2_1 cpu s) then L_2TAG_PACKET_27_0_2 cpu (L_2TAG_PACKET_25_0_2_1 cpu s) else
    B1_5 cpu (L_2TAG_PACKET_25_0_2_2 cpu (L_2TAG_PACKET_25_0_2_1 cpu s)) := rfl

theorem pow_L_2TAG_PACKET_26_0_2_eq (cpu : Cpu) (s : Machine) : L_2TAG_PACKET_26_0_2 cpu s =
    if cc_equal (L_2TAG_PACKET_26_0_2_1 cpu s) then L_2TAG_PACKET_24_0_2 cpu (L_2TAG_PACKET_26_0_2_1 cpu s) else
    L_2TAG_PACKET_25_0_2 cpu (L_2TAG_PACKET_26_0_2_2 cpu (L_2TAG_PACKET_26_0_2_1 cpu s)) := rfl

theorem pow_L_2TAG_PACKET_23_0_2_eq (cpu : Cpu) (s : Machine) : L_2TAG_PACKET_23_0_2 cpu s =
    if cc_notEqual (L_2TAG_PACKET_23_0_2_1 cpu s) then L_2TAG_PACKET_24_0_2 cpu (L_2TAG_PACKET_23_0_2_1 cpu s) else
    if cc_notEqual (L_2TAG_PACKET_23_0_2_2 cpu (L_2TAG_PACKET_23_0_2_1 cpu s)) then L_2TAG_PACKET_25_0_2 cpu (L_2TAG_PACKET_23_0_2_2 cpu (L_2TAG_PACKET_23_0_2_1 cpu s)) else
    L_2TAG_PACKET_24_0_2 cpu (L_2TAG_PACKET_23_0_2_3 cpu (L_2TAG_PACKET_23_0_2_2 cpu (L_2TAG_PACKET_23_0_2_1 cpu s))) := rfl

theorem pow_L_2TAG_PACKET_21_0_2_eq (cpu : Cpu) (s : Machine) : L_2TAG_PACKET_21_0_2 cpu s =
    if cc_above (L_2TAG_PACKET_21_0_2_1 cpu s) then L_2TAG_PACKET_24_0_2 cpu (L_2TAG_PACKET_21_0_2_1 cpu s) else
    if cc_equal (L_2TAG_PACKET_21_0_2_2 cpu (L_2TAG_PACKET_21_0_2_1 cpu s)) then L_2TAG_PACKET_26_0_2 cpu (L_2TAG_PACKET_21_0_2_2 cpu (L_2TAG_PACKET_21_0_2_1 cpu s)) else
    if cc_above (L_2TAG_PACKET_21_0_2_3 cpu (L_2TAG_PACKET_21_0_2_2 cpu (L_2TAG_PACKET_21_0_2_1 cpu s))) then L_2TAG_PACKET_23_0_2 cpu (L_2TAG_PACKET_21_0_2_3 cpu (L_2TAG_PACKET_21_0_2_2 cpu (L_2TAG_PACKET_21_0_2_1 cpu s))) else
    if cc_below (L_2TAG_PACKET_21_0_2_4 cpu (L_2TAG_PACKET_21_0_2_3 cpu (L_2TAG_PACKET_21_0_2_2 cpu (L_2TAG_PACKET_21_0_2_1 cpu s)))) then L_2TAG_PACKET_24_0_2 cpu (L_2TAG_PACKET_21_0_2_4 cpu (L_2TAG_PACKET_21_0_2_3 cpu (L_2TAG_PACKET_21_0_2_2 cpu (L_2TAG_PACKET_21_0_2_1 cpu s)))) else
    if cc_notEqual (L_2TAG_PACKET_21_0_2_5 cpu (L_2TAG_PACKET_21_0_2_4 cpu (L_2TAG_PACKET_21_0_2_3 cpu (L_2TAG_PACKET_21_0_2_2 cpu (L_2TAG_PACKET_21_0_2_1 cpu s))))) then L_2TAG_PACKET_24_0_2 cpu (L_2TAG_PACKET_21_0_2_5 cpu (L_2TAG_PACKET_21_0_2_4 cpu (L_2TAG_PACKET_21_0_2_3 cpu (L_2TAG_PACKET_21_0_2_2 cpu (L_2TAG_PACKET_21_0_2_1 cpu s))))) else
    if cc_equal (L_2TAG_PACKET_21_0_2_6 cpu (L_2TAG_PACKET_21_0_2_5 cpu (L_2TAG_PACKET_21_0_2_4 cpu (L_2TAG_PACKET_21_0_2_3 cpu (L_2TAG_PACKET_21_0_2_2 cpu (L_2TAG_PACKET_21_0_2_1 cpu s)))))) then L_2TAG_PACKET_24_0_2 cpu (L_2TAG_PACKET_21_0_2_6 cpu (L_2TAG_PACKET_21_0_2_5 cpu (L_2TAG_PACKET_21_0_2_4 cpu (L_2TAG_PACKET_21_0_2_3 cpu (L_2TAG_PACKET_21_0_2_2 cpu (L_2TAG_PACKET_21_0_2_1 cpu s)))))) else
    L_2TAG_PACKET_25_0_2 cpu (L_2TAG_PACKET_21_0_2_7 cpu (L_2TAG_PACKET_21_0_2_6 cpu (L_2TAG_PACKET_21_0_2_5 cpu (L_2TAG_PACKET_21_0_2_4 cpu (L_2TAG_PACKET_21_0_2_3 cpu (L_2TAG_PACKET_21_0_2_2 cpu (L_2TAG_PACKET_21_0_2_1 cpu s))))))) := rfl

theorem pow_L_2TAG_PACKET_20_0_2_eq (cpu : Cpu) (s : Machine) : L_2TAG_PACKET_20_0_2 cpu s =
    if cc_notEqual (L_2TAG_PACKET_20_0_2_1 cpu s) then L_2TAG_PACKET_21_0_2 cpu (L_2TAG_PACKET_20_0_2_1 cpu s) else
    if cc_notEqual (L_2TAG_PACKET_20_0_2_2 cpu (L_2TAG_PACKET_20_0_2_1 cpu s)) then L_2TAG_PACKET_22_0_2 cpu (L_2TAG_PACKET_20_0_2_2 cpu (L_2TAG_PACKET_20_0_2_1 cpu s)) else
    B1_5 cpu (L_2TAG_PACKET_20_0_2_3 cpu (L_2TAG_PACKET_20_0_2_2 cpu (L_2TAG_PACKET_20_0_2_1 cpu s))) := rfl

theorem pow_L_2TAG_PACKET_15_0_2_eq (cpu : Cpu) (s : Machine) : L_2TAG_PACKET_15_0_2 cpu s =
    if cc_equal (L_2TAG_PACKET_15_0_2_1 cpu s) then L_2TAG_PACKET_19_0_2 cpu (L_2TAG_PACKET_15_0_2_1 cpu s) else
    if cc_notEqual (L_2TAG_PACKET_15_0_2_2 cpu (L_2TAG_PACKET_15_0_2_1 cpu s)) then L_2TAG_PACKET_20_0_2 cpu (L_2TAG_PACKET_15_0_2_2 cpu (L_2TAG_PACKET_15_0_2_1 cpu s)) else
    if cc_notEqual (L_2TAG_PACKET_15_0_2_3 cpu (L_2TAG_PACKET_15_0_2_2 cpu (L_2TAG_PACKET_15_0_2_1 cpu s))) then L_2TAG_PACKET_18_0_2 cpu (L_2TAG_PACKET_15_0_2_3 cpu (L_2TAG_PACKET_15_0_2_2 cpu (L_2TAG_PACKET_15_0_2_1 cpu s))) else
    L_2TAG_PACKET_20_0_2 cpu (L_2TAG_PACKET_15_0_2_4 cpu (L_2TAG_PACKET_15_0_2_3 cpu (L_2TAG_PACKET_15_0_2_2 cpu (L_2TAG_PACKET_15_0_2_1 cpu s)))) := rfl

theorem pow_L_2TAG_PACKET_16_0_2_eq (cpu : Cpu) (s : Machine) : L_2TAG_PACKET_16_0_2 cpu s =
    L_2TAG_PACKET_17_0_2 cpu (L_2TAG_PACKET_16_0_2_1 cpu s) := rfl

theorem pow_L_2TAG_PACKET_6_0_2_eq (cpu : Cpu) (s : Machine) : L_2TAG_PACKET_6_0_2 cpu s =
    if cc_equal (L_2TAG_PACKET_6_0_2_1 cpu s) then L_2TAG_PACKET_15_0_2 cpu (L_2TAG_PACKET_6_0_2_1 cpu s) else
    if cc_equal (L_2TAG_PACKET_6_0_2_2 cpu (L_2TAG_PACKET_6_0_2_1 cpu s)) then L_2TAG_PACKET_16_0_2 cpu (L_2TAG_PACKET_6_0_2_2 cpu (L_2TAG_PACKET_6_0_2_1 cpu s)) else
    B1_5 cpu (L_2TAG_PACKET_6_0_2_3 cpu (L_2TAG_PACKET_6_0_2_2 cpu (L_2TAG_PACKET_6_0_2_1 cpu s))) := rfl

theorem pow_L_2TAG_PACKET_0_0_2_eq (cpu : Cpu) (s : Machine) : L_2TAG_PACKET_0_0_2 cpu s =
    if cc_equal (L_2TAG_PACKET_0_0_2_1 cpu s) then L_2TAG_PACKET_6_0_2 cpu (L_2TAG_PACKET_0_0_2_1 cpu s) else
    if cc_notEqual (L_2TAG_PACKET_0_0_2_2 cpu (L_2TAG_PACKET_0_0_2_1 cpu s)) then L_2TAG_PACKET_7_0_2 cpu (L_2TAG_PACKET_0_0_2_2 cpu (L_2TAG_PACKET_0_0_2_1 cpu s)) else
    L_2TAG_PACKET_8_0_2 cpu (L_2TAG_PACKET_0_0_2_3 cpu (L_2TAG_PACKET_0_0_2_2 cpu (L_2TAG_PACKET_0_0_2_1 cpu s))) := rfl

theorem pow_B1_2_eq (cpu : Cpu) (s : Machine) : B1_2 cpu s =
    if cc_aboveEqual (B1_2_1 cpu s) then L_2TAG_PACKET_0_0_2 cpu (B1_2_1 cpu s) else
    L_2TAG_PACKET_1_0_2 cpu (B1_2_2 cpu (B1_2_1 cpu s)) := rfl

theorem pow_start_eq (cpu : Cpu) (s : Machine) : start cpu s =
    B1_2 cpu (start_1 cpu s) := rfl

theorem pow_entry_eq (cpu : Cpu) (s : Machine) : entry cpu s =
    start cpu (entry_1 cpu s) := rfl

end fast_pow

end MacroAssembler


namespace MacroAssembler
open XReg GReg Machine

/-! ### Evaluations of the arithmetic at constants -/

theorem f64Div_negOne_zero : f64Div 0xBFF0000000000000 0 = 0xFFF0000000000000 := by decide!
theorem f64Add_zero_zero : f64Add 0 0 = 0 := by decide!
theorem f64Mul_zero_inf : f64Mul 0 0x7FF0000000000000 = 0xFFF8000000000000 := by decide!

/-! ### Bitwise operations and arithmetic -/

theorem or_eq_zero (a b : Nat) : a ||| b = 0 ↔ a = 0 ∧ b = 0 := by
  constructor
  · intro h
    constructor
    · apply Nat.eq_of_testBit_eq
      intro i
      have := congrArg (fun t => Nat.testBit t i) h
      simp only [Nat.testBit_or, Nat.zero_testBit, Bool.or_eq_false_iff] at this
      simp [this.1]
    · apply Nat.eq_of_testBit_eq
      intro i
      have := congrArg (fun t => Nat.testBit t i) h
      simp only [Nat.testBit_or, Nat.zero_testBit, Bool.or_eq_false_iff] at this
      simp [this.2]
  · rintro ⟨rfl, rfl⟩
    rfl

theorem or_mod_pow (a b n : Nat) : (a ||| b) % 2 ^ n = a % 2 ^ n ||| b % 2 ^ n := by
  apply Nat.eq_of_testBit_eq
  intro i
  simp only [Nat.testBit_mod_two_pow, Nat.testBit_or]
  cases decide (i < n) <;> simp

theorem or_div_pow (a b n : Nat) : (a ||| b) / 2 ^ n = a / 2 ^ n ||| b / 2 ^ n := by
  simp only [← Nat.shiftRight_eq_div_pow]
  apply Nat.eq_of_testBit_eq
  intro i
  simp only [Nat.testBit_shiftRight, Nat.testBit_or]

/-- A contiguous mask selects a bit field. -/
theorem and_mask (x n k : Nat) : x &&& ((2 ^ n - 1) * 2 ^ k) = x / 2 ^ k % 2 ^ n * 2 ^ k := by
  apply Nat.eq_of_testBit_eq
  intro i
  rw [Nat.mul_comm (2 ^ n - 1), Nat.mul_comm _ (2 ^ k), ← Nat.shiftRight_eq_div_pow]
  simp only [Nat.testBit_and, Nat.testBit_mul_pow_two, Nat.testBit_two_pow_sub_one,
    Nat.testBit_mod_two_pow, Nat.testBit_shiftRight]
  by_cases h : k ≤ i
  · have e : k + (i - k) = i := by omega
    simp only [e, ge_iff_le, h, decide_True, Bool.true_and]
    cases decide (i - k < n) <;> simp
  · simp [h]

/-- The immediate masks of the kernels, as bit fields. -/
theorem and_imm (x : Nat) :
    (x &&& 4293918720 = x / 1048576 % 4096 * 1048576) ∧ (x &&& 1 = x % 2) ∧ (x &&& 16711680 = x
    / 65536 % 256 * 65536) ∧ (x &&& 16760832 = x / 16384 % 1024 * 16384) ∧ (x &&& 2047 = x %
    2048) ∧ (x &&& 2147483647 = x % 2147483648) ∧ (x &&& 255 = x % 256) ∧ (x &&& 32752 = x / 16
    % 2048 * 16) ∧ (x &&& 32767 = x % 32768) ∧ (x &&& 32768 = x / 32768 % 2 * 32768) ∧ (x &&& 63
    = x % 64) ∧ (x &&& 2147483648 = x / 2147483648 % 2 * 2147483648) ∧ (x &&& 2 = x / 2 % 2 * 2) := by
  refine ⟨?_, ?_, ?_, ?_, ?_, ?_, ?_, ?_, ?_, ?_, ?_, ?_, ?_⟩
  · exact and_mask x 12 20
  · exact Nat.and_one_is_mod x
  · exact and_mask x 8 16
  · exact and_mask x 10 14
  · simpa using and_mask x 11 0
  · simpa using and_mask x 31 0
  · simpa using and_mask x 8 0
  · exact and_mask x 11 4
  · simpa using and_mask x 15 0
  · exact and_mask x 1 15
  · simpa using and_mask x 6 0
  · exact and_mask x 1 31
  · exact and_mask x 1 1

/-- The same masks as left operands. -/
theorem and_imm_left (x : Nat) :
    (32752 &&& x = x / 16 % 2048 * 16) ∧ (32767 &&& x = x % 32768) ∧
    (32768 &&& x = x / 32768 % 2 * 32768) := by
  refine ⟨?_, ?_, ?_⟩
  · rw [Nat.and_comm]; exact and_mask x 11 4
  · rw [Nat.and_comm]; simpa using and_mask x 15 0
  · rw [Nat.and_comm]; exact and_mask x 1 15


theorem xor_ones32 (x : Nat) (h : x < 4294967296) : 4294967295 ^^^ x = 4294967295 - x := by
  apply Nat.eq_of_testBit_eq
  intro i
  have e : 4294967295 - x = 2 ^ 32 - (x + 1) := by omega
  have h2 : (4294967295 : Nat) = 2 ^ 32 - 1 := by decide
  rw [e, Nat.testBit_xor, h2, Nat.testBit_two_pow_sub_one,
    Nat.testBit_two_pow_sub_succ (by omega : x < 2 ^ 32)]
  by_cases hi : i < 32
  · simp [hi]
  · have : x.testBit i = false :=
      Nat.testBit_lt_two_pow (Nat.lt_of_lt_of_le (by omega : x < 2 ^ 32)
        (Nat.pow_le_pow_right (by decide) (by omega)))
    simp [hi, this]

theorem le_or_left (a b : Nat) : a ≤ a ||| b :=
  Nat.le_of_testBit fun i hi => by simp [hi]

theorem le_or_right (a b : Nat) : b ≤ a ||| b :=
  Nat.le_of_testBit fun i hi => by simp [hi]

theorem or_lt_pow (a b n : Nat) : a ||| b < 2 ^ n ↔ a < 2 ^ n ∧ b < 2 ^ n :=
  ⟨fun h => ⟨Nat.lt_of_le_of_lt (le_or_left a b) h, Nat.lt_of_le_of_lt (le_or_right a b) h⟩,
    fun h => Nat.or_lt_two_pow h.1 h.2⟩

theorem or_lt_2p31 (a b : Nat) : a ||| b < 2147483648 ↔ a < 2147483648 ∧ b < 2147483648 :=
  or_lt_pow a b 31

theorem or_mod32 (a b : Nat) :
    (a ||| b) % 4294967296 = a % 4294967296 ||| b % 4294967296 := or_mod_pow a b 32

theorem or_mod64 (a b : Nat) :
    (a ||| b) % 18446744073709551616 = a % 18446744073709551616 ||| b % 18446744073709551616 :=
  or_mod_pow a b 64

/-- Word 3 of a register whose low quadword is `a`. -/
theorem pextrw3_mk (a b : Nat) :
    (a % 18446744073709551616 + 18446744073709551616 * b) / 281474976710656 % 65536 =
      a % 18446744073709551616 / 281474976710656 % 65536 := by
  omega

/-! ### Rounding -/

theorem ilog2Aux_spec (k : Nat) : ∀ x, 0 < x → x < 2 ^ (2 ^ k) →
    2 ^ ilog2Aux k x ≤ x ∧ x < 2 ^ (ilog2Aux k x + 1) := by
  induction k with
  | zero =>
    intro x h0 h1
    have : x = 1 := by
      simp only [Nat.pow_zero, Nat.pow_one] at h1
      omega
    subst this
    simp [ilog2Aux]
  | succ k ih =>
    intro x h0 h1
    have hp : (2 : Nat) ^ (2 ^ (k + 1)) = 2 ^ (2 ^ k) * 2 ^ (2 ^ k) := by
      rw [← Nat.pow_add, Nat.pow_succ, Nat.mul_two]
    rw [hp] at h1
    have hpos : 0 < 2 ^ (2 ^ k) := Nat.two_pow_pos _
    unfold ilog2Aux
    by_cases hc : 2 ^ (2 ^ k) ≤ x
    · rw [if_pos hc]
      have hy0 : 0 < x / 2 ^ (2 ^ k) := Nat.div_pos hc hpos
      have hy1 : x / 2 ^ (2 ^ k) < 2 ^ (2 ^ k) := Nat.div_lt_of_lt_mul h1
      obtain ⟨a, b⟩ := ih _ hy0 hy1
      constructor
      · rw [Nat.pow_add]
        calc 2 ^ (2 ^ k) * 2 ^ ilog2Aux k (x / 2 ^ (2 ^ k))
            ≤ 2 ^ (2 ^ k) * (x / 2 ^ (2 ^ k)) := Nat.mul_le_mul_left _ a
          _ ≤ x := Nat.mul_div_le x _
      · rw [Nat.add_assoc, Nat.pow_add]
        calc x < 2 ^ (2 ^ k) * (x / 2 ^ (2 ^ k) + 1) := Nat.lt_mul_div_succ x hpos
          _ ≤ 2 ^ (2 ^ k) * 2 ^ (ilog2Aux k (x / 2 ^ (2 ^ k)) + 1) :=
            Nat.mul_le_mul_left _ b
    · rw [if_neg hc]
      exact ih x h0 (Nat.lt_of_not_le hc)

theorem ilog2_eq (x n : Nat) (h1 : 2 ^ n ≤ x) (h2 : x < 2 ^ (n + 1)) (hn : n < 4096) :
    ilog2 x = n := by
  have h0 : 0 < x := Nat.lt_of_lt_of_le (Nat.two_pow_pos _) h1
  have hx : x < 2 ^ (2 ^ 12) :=
    Nat.lt_of_lt_of_le h2 (Nat.pow_le_pow_right (by decide) (by simp only [Nat.reducePow]; omega))
  obtain ⟨a, b⟩ := ilog2Aux_spec 12 x h0 hx
  unfold ilog2
  have e1 : ilog2Aux 12 x < n + 1 :=
    (Nat.pow_lt_pow_iff_right (by decide : 1 < 2)).1 (Nat.lt_of_le_of_lt a h2)
  have e2 : n < ilog2Aux 12 x + 1 :=
    (Nat.pow_lt_pow_iff_right (by decide : 1 < 2)).1 (Nat.lt_of_le_of_lt h1 b)
  omega

theorem rne_eq (sig k m r : Nat) (h : sig = m * 2 ^ k + r) (hr : r < 2 ^ k) (hk : 0 < k) :
    rne sig k = if 2 ^ (k - 1) < r ∨ (r = 2 ^ (k - 1) ∧ m % 2 = 1) then m + 1 else m := by
  have hd : sig / 2 ^ k = m := by
    rw [h, Nat.add_comm, Nat.add_mul_div_right _ _ (Nat.two_pow_pos k), Nat.div_eq_of_lt hr,
      Nat.zero_add]
  have hm : sig % 2 ^ k = r := by
    rw [h, Nat.add_comm, Nat.add_mul_mod_self_right, Nat.mod_eq_of_lt hr]
  unfold rne
  simp only [hd, hm, if_neg (Nat.pos_iff_ne_zero.1 hk)]

theorem roundPack_of (s sig e n q mant : Nat) (hn : 2 ^ n ≤ sig) (hn2 : sig < 2 ^ (n + 1))
    (hn3 : n < 4096) (hq : max (n + e - 52) 2926 = q)
    (hmant : (if q ≤ e then sig * 2 ^ (e - q) else rne sig (q - e)) = mant)
    (hb : (q - 2926) * 2 ^ 52 + mant < 2047 * 2 ^ 52) :
    roundPack s sig e = s * 2 ^ 63 + ((q - 2926) * 2 ^ 52 + mant) := by
  have h0 : sig ≠ 0 := by
    have := Nat.two_pow_pos n
    omega
  unfold roundPack roundPackG
  simp only [if_neg h0, ilog2_eq sig n hn hn2 hn3, Nat.reduceAdd, Nat.reduceSub, hq, hmant]
  rw [if_neg (by omega)]

theorem ilog2_lit : ilog2 1 = 0 ∧ ilog2 16 = 4 :=
  ⟨ilog2_eq 1 0 (by decide) (by decide) (by decide),
    ilog2_eq 16 4 (by decide) (by decide) (by decide)⟩

theorem ilog2_lt32 (v : Nat) (h : v < 4294967296) : ilog2 v ≤ 31 := by
  rcases Nat.eq_zero_or_pos v with h0 | h0
  · rw [h0]
    decide!
  · have hx : v < 2 ^ (2 ^ 12) :=
      Nat.lt_of_lt_of_le h (by decide!)
    obtain ⟨a, -⟩ := ilog2Aux_spec 12 v h0 hx
    unfold ilog2
    have e1 : ilog2Aux 12 v < 32 :=
      (Nat.pow_lt_pow_iff_right (by decide : 1 < 2)).1 (Nat.lt_of_le_of_lt a h)
    omega

/-! ### Arguments -/

theorem arg0_lt (s : Machine) : s.arg0 < 18446744073709551616 := by
  simp only [Machine.io_eq_get, Nat.reducePow]
  omega

theorem arg1_lt (s : Machine) : s.arg1 < 18446744073709551616 := by
  simp only [Machine.io_eq_get, Nat.reducePow]
  omega

/-! ### NaN operands -/

theorem f64Quiet_isNaN (x : Nat) (h : f64IsNaN x = true) : f64IsNaN (f64Quiet x) = true := by
  simp only [f64IsNaN, f64Exp, f64Man, f64Quiet, decide_eq_true_eq] at h ⊢
  have e1 : (x ||| 2 ^ 51) / 2 ^ 52 = x / 2 ^ 52 := by
    rw [or_div_pow]
    simp
  have e2 : (x ||| 2 ^ 51) % 2 ^ 52 = x % 2 ^ 52 ||| 2 ^ 51 := by
    rw [or_mod_pow]
    rfl
  rw [e1, e2, ne_eq, or_eq_zero]
  refine ⟨h.1, ?_⟩
  rintro ⟨-, h2⟩
  simp at h2

theorem f64Quiet_lt (x : Nat) (h : x < 18446744073709551616) :
    f64Quiet x < 18446744073709551616 :=
  Nat.or_lt_two_pow (n := 64) h (by decide)

theorem f64Add_of_isNaN (a b : Nat) (h : f64IsNaN a = true) : f64Add a b = f64Quiet a := by
  simp [f64Add, h]

end MacroAssembler

namespace MacroAssembler
open XReg GReg Machine

/-! ### Summaries of blocks of `fast_pow` -/

theorem bsr_le (v : Nat) (h : v < 4294967296) : (if v = 0 then v else ilog2 v) ≤ 31 := by
  split
  · omega
  · exact ilog2_lt32 v h

/-- The exponent sum left in `eax` by the block at label 4: sixteen times a bit index plus the
exponent field of `y`, minus 15872. -/
theorem pow_L4_1_eax (cpu : Cpu) (s : Machine) :
    ((fast_pow.L_2TAG_PACKET_4_0_2_1 cpu s).get (.g eax) + 15872 + 4294967296
      - s.get (Loc.m 16) / 281474976710656 % 65536 / 16 % 2048 * 16) % 4294967296 ≤ 496 ∧
    (fast_pow.L_2TAG_PACKET_4_0_2_1 cpu s).get (.g eax) < 4294967296 := by
  set_option maxRecDepth 8000 in
  simp only [
      ↓reduceIte, ↓fast_pow.pow_L_2TAG_PACKET_4_0_2_1_sem, ↓Machine.get_setx,
      ↓Machine.get_setg, ↓Machine.get_setstk, ↓Machine.get_enter, ↓Machine.get_setFlags,
      ↓Machine.trace_set, ↓Machine.get_ite, ↓Machine.trace_ite, ↓Machine.obs_eq_get,
      ↓Machine.flags_get, ↓Machine.flags_trace, ↓sem_get_1, ↓sem_get_2, ↓sem_get_3,
      ↓sem_get_4, ↓sem_trace_1, ↓sem_trace_2, ↓sem_trace_3, ↓sem_trace_4, ↓load_const,
      cc_iff, ea, and_imm, and_imm_left, ilog2_lit, or_eq_zero, or_mod32, or_lt_2p31,
      Nat.mod_mod, Nat.zero_or, Nat.or_zero, Nat.sub_zero, Nat.add_mod_right, lane_eq,
      Machine.io_eq_get, Nat.xor_self, Loc.x.injEq, Loc.g.injEq, Loc.m.injEq,
      Bool.toNat_eq_zero, Bool.toNat_eq_one, Nat.reducePow, Nat.reduceMul, Nat.reduceMod,
      Nat.reduceAdd, Nat.reduceSub, Nat.reduceDiv, Nat.reduceEqDiff, Nat.reduceLTLE,
      Nat.reduceLeDiff, Nat.reduceLT, Nat.reduceGT, Nat.reduceOr, Nat.reduceXor,
      reduceCtorEq, Bool.not_eq_true', Bool.not_eq_true, decide_eq_true_eq,
      decide_eq_false_iff_not, Bool.and_eq_true, Bool.or_eq_true, bne_iff_ne, beq_iff_eq,
      ne_eq, Bool.not_eq_false', Bool.not_eq_false, decide_not, not_not,
      Bool.decide_eq_true, Bool.false_eq_true, Bool.true_eq_false, not_false_eq_true,
      not_true_eq_false, and_true, true_and, and_false, false_and, or_true, true_or,
      or_false, false_or, not_true, not_false_iff, iff_self, true_iff, iff_true, false_iff,
      iff_false, ite_self, decide_eq_decide, decide_False, decide_True, Bool.not_true,
      Bool.not_false]
  generalize hJ : (if _ % 4294967296 = 0 then _ else ilog2 _) = J
  have hJ' : J ≤ 31 := by
    rw [← hJ]
    exact bsr_le _ (Nat.mod_lt _ (by decide))
  clear hJ
  omega

theorem pow_L4_1_flags (cpu : Cpu) (s : Machine) :
    (fast_pow.L_2TAG_PACKET_4_0_2_1 cpu s).get .cf = 
      (decide ((fast_pow.L_2TAG_PACKET_4_0_2_1 cpu s).get (.g eax) < 624)).toNat := by
  generalize hE : (fast_pow.L_2TAG_PACKET_4_0_2_1 cpu s).get (.g eax) = E
  set_option maxRecDepth 8000 in
  simp only [
      ↓reduceIte, ↓fast_pow.pow_L_2TAG_PACKET_4_0_2_1_sem, ↓Machine.get_setx,
      ↓Machine.get_setg, ↓Machine.get_setstk, ↓Machine.get_enter, ↓Machine.get_setFlags,
      ↓Machine.trace_set, ↓Machine.get_ite, ↓Machine.trace_ite, ↓Machine.obs_eq_get,
      ↓Machine.flags_get, ↓Machine.flags_trace, ↓sem_get_1, ↓sem_get_2, ↓sem_get_3,
      ↓sem_get_4, ↓sem_trace_1, ↓sem_trace_2, ↓sem_trace_3, ↓sem_trace_4, ↓load_const,
      cc_iff, ea, and_imm, and_imm_left, ilog2_lit, or_eq_zero, or_mod32, or_lt_2p31,
      Nat.mod_mod, Nat.zero_or, Nat.or_zero, Nat.sub_zero, Nat.add_mod_right, lane_eq,
      Machine.io_eq_get, Nat.xor_self, Loc.x.injEq, Loc.g.injEq, Loc.m.injEq,
      Bool.toNat_eq_zero, Bool.toNat_eq_one, Nat.reducePow, Nat.reduceMul, Nat.reduceMod,
      Nat.reduceAdd, Nat.reduceSub, Nat.reduceDiv, Nat.reduceEqDiff, Nat.reduceLTLE,
      Nat.reduceLeDiff, Nat.reduceLT, Nat.reduceGT, Nat.reduceOr, Nat.reduceXor,
      reduceCtorEq, Bool.not_eq_true', Bool.not_eq_true, decide_eq_true_eq,
      decide_eq_false_iff_not, Bool.and_eq_true, Bool.or_eq_true, bne_iff_ne, beq_iff_eq,
      ne_eq, Bool.not_eq_false', Bool.not_eq_false, decide_not, not_not,
      Bool.decide_eq_true, Bool.false_eq_true, Bool.true_eq_false, not_false_eq_true,
      not_true_eq_false, and_true, true_and, and_false, false_and, or_true, true_or,
      or_false, false_or, not_true, not_false_iff, iff_self, true_iff, iff_true, false_iff,
      iff_false, ite_self, decide_eq_decide, decide_False, decide_True, Bool.not_true,
      Bool.not_false]
  set_option maxRecDepth 8000 in
  simp only [
      ↓reduceIte, ↓fast_pow.pow_L_2TAG_PACKET_4_0_2_1_sem, ↓Machine.get_setx,
      ↓Machine.get_setg, ↓Machine.get_setstk, ↓Machine.get_enter, ↓Machine.get_setFlags,
      ↓Machine.trace_set, ↓Machine.get_ite, ↓Machine.trace_ite, ↓Machine.obs_eq_get,
      ↓Machine.flags_get, ↓Machine.flags_trace, ↓sem_get_1, ↓sem_get_2, ↓sem_get_3,
      ↓sem_get_4, ↓sem_trace_1, ↓sem_trace_2, ↓sem_trace_3, ↓sem_trace_4, ↓load_const,
      cc_iff, ea, and_imm, and_imm_left, ilog2_lit, or_eq_zero, or_mod32, or_lt_2p31,
      Nat.mod_mod, Nat.zero_or, Nat.or_zero, Nat.sub_zero, Nat.add_mod_right, lane_eq,
      Machine.io_eq_get, Nat.xor_self, Loc.x.injEq, Loc.g.injEq, Loc.m.injEq,
      Bool.toNat_eq_zero, Bool.toNat_eq_one, Nat.reducePow, Nat.reduceMul, Nat.reduceMod,
      Nat.reduceAdd, Nat.reduceSub, Nat.reduceDiv, Nat.reduceEqDiff, Nat.reduceLTLE,
      Nat.reduceLeDiff, Nat.reduceLT, Nat.reduceGT, Nat.reduceOr, Nat.reduceXor,
      reduceCtorEq, Bool.not_eq_true', Bool.not_eq_true, decide_eq_true_eq,
      decide_eq_false_iff_not, Bool.and_eq_true, Bool.or_eq_true, bne_iff_ne, beq_iff_eq,
      ne_eq, Bool.not_eq_false', Bool.not_eq_false, decide_not, not_not,
      Bool.decide_eq_true, Bool.false_eq_true, Bool.true_eq_false, not_false_eq_true,
      not_true_eq_false, and_true, true_and, and_false, false_and, or_true, true_or,
      or_false, false_or, not_true, not_false_iff, iff_self, true_iff, iff_true, false_iff,
      iff_false, ite_self, decide_eq_decide, decide_False, decide_True, Bool.not_true,
      Bool.not_false] at hE
  rw [hE]

theorem pow_L4_1_frame (cpu : Cpu) (s : Machine) (k : Nat) :
    (fast_pow.L_2TAG_PACKET_4_0_2_1 cpu s).get (.m k) = s.get (.m k) := by
  set_option maxRecDepth 8000 in
  simp only [
      ↓reduceIte, ↓fast_pow.pow_L_2TAG_PACKET_4_0_2_1_sem, ↓Machine.get_setx,
      ↓Machine.get_setg, ↓Machine.get_setstk, ↓Machine.get_enter, ↓Machine.get_setFlags,
      ↓Machine.trace_set, ↓Machine.get_ite, ↓Machine.trace_ite, ↓Machine.obs_eq_get,
      ↓Machine.flags_get, ↓Machine.flags_trace, ↓sem_get_1, ↓sem_get_2, ↓sem_get_3,
      ↓sem_get_4, ↓sem_trace_1, ↓sem_trace_2, ↓sem_trace_3, ↓sem_trace_4, ↓load_const,
      cc_iff, ea, and_imm, and_imm_left, ilog2_lit, or_eq_zero, or_mod32, or_lt_2p31,
      Nat.mod_mod, Nat.zero_or, Nat.or_zero, Nat.sub_zero, Nat.add_mod_right, lane_eq,
      Machine.io_eq_get, Nat.xor_self, Loc.x.injEq, Loc.g.injEq, Loc.m.injEq,
      Bool.toNat_eq_zero, Bool.toNat_eq_one, Nat.reducePow, Nat.reduceMul, Nat.reduceMod,
      Nat.reduceAdd, Nat.reduceSub, Nat.reduceDiv, Nat.reduceEqDiff, Nat.reduceLTLE,
      Nat.reduceLeDiff, Nat.reduceLT, Nat.reduceGT, Nat.reduceOr, Nat.reduceXor,
      reduceCtorEq, Bool.not_eq_true', Bool.not_eq_true, decide_eq_true_eq,
      decide_eq_false_iff_not, Bool.and_eq_true, Bool.or_eq_true, bne_iff_ne, beq_iff_eq,
      ne_eq, Bool.not_eq_false', Bool.not_eq_false, decide_not, not_not,
      Bool.decide_eq_true, Bool.false_eq_true, Bool.true_eq_false, not_false_eq_true,
      not_true_eq_false, and_true, true_and, and_false, false_and, or_true, true_or,
      or_false, false_or, not_true, not_false_iff, iff_self, true_iff, iff_true, false_iff,
      iff_false, ite_self, decide_eq_decide, decide_False, decide_True, Bool.not_true,
      Bool.not_false]

theorem pow_L4_1_exact (cpu : Cpu) (s : Machine) :
    (fast_pow.L_2TAG_PACKET_4_0_2_1 cpu s).get (.g eax) =
      (16 * ilog2 ((toInt32 (s.get (.g eax))).natAbs + 1) + 4294951424 +
        16 * (s.get (.m 16) / 2 ^ 52 % 2048)) % 4294967296 := by
  simp only [toInt32]
  set_option maxRecDepth 8000 in
  simp only [
      ↓reduceIte, ↓fast_pow.pow_L_2TAG_PACKET_4_0_2_1_sem, ↓Machine.get_setx,
      ↓Machine.get_setg, ↓Machine.get_setstk, ↓Machine.get_enter, ↓Machine.get_setFlags,
      ↓Machine.trace_set, ↓Machine.get_ite, ↓Machine.trace_ite, ↓Machine.obs_eq_get,
      ↓Machine.flags_get, ↓Machine.flags_trace, ↓sem_get_1, ↓sem_get_2, ↓sem_get_3,
      ↓sem_get_4, ↓sem_trace_1, ↓sem_trace_2, ↓sem_trace_3, ↓sem_trace_4, ↓load_const,
      cc_iff, ea, and_imm, and_imm_left, ilog2_lit, or_eq_zero, or_mod32, or_lt_2p31,
      Nat.mod_mod, Nat.zero_or, Nat.or_zero, Nat.sub_zero, Nat.add_mod_right, lane_eq,
      Machine.io_eq_get, Nat.xor_self, Loc.x.injEq, Loc.g.injEq, Loc.m.injEq,
      Bool.toNat_eq_zero, Bool.toNat_eq_one, Nat.reducePow, Nat.reduceMul, Nat.reduceMod,
      Nat.reduceAdd, Nat.reduceSub, Nat.reduceDiv, Nat.reduceEqDiff, Nat.reduceLTLE,
      Nat.reduceLeDiff, Nat.reduceLT, Nat.reduceGT, Nat.reduceOr, Nat.reduceXor,
      reduceCtorEq, Bool.not_eq_true', Bool.not_eq_true, decide_eq_true_eq,
      decide_eq_false_iff_not, Bool.and_eq_true, Bool.or_eq_true, bne_iff_ne, beq_iff_eq,
      ne_eq, Bool.not_eq_false', Bool.not_eq_false, decide_not, not_not,
      Bool.decide_eq_true, Bool.false_eq_true, Bool.true_eq_false, not_false_eq_true,
      not_true_eq_false, and_true, true_and, and_false, false_and, or_true, true_or,
      or_false, false_or, not_true, not_false_iff, iff_self, true_iff, iff_true, false_iff,
      iff_false, ite_self, decide_eq_decide, decide_False, decide_True, Bool.not_true,
      Bool.not_false]
  generalize hK : s.get (.g eax) % 4294967296 = K
  have hlt : K < 4294967296 := by
    rw [← hK]
    exact Nat.mod_lt _ (by decide)
  rcases Nat.lt_or_ge K 2147483648 with h | h
  · have h0 : K / 2147483648 = 0 := by omega
    have e1 : (K % 4294967296 + 1) % 4294967296 = K + 1 := by omega
    have e2 : ((K : Int)).natAbs = K := Int.natAbs_ofNat K
    have hj := ilog2_lt32 (K + 1) (by omega)
    simp only [if_pos h, h0, Nat.zero_mod, Nat.zero_xor, Nat.add_zero, Nat.mod_mod, e1, e2,
      if_neg (Nat.succ_ne_zero K)]
    omega
  · have h0 : K / 2147483648 + 4294967294 = 4294967295 := by omega
    have e0 : (K + 4294967295 % 4294967296) % 4294967296 = K - 1 := by omega
    have e1 : (4294967295 % 4294967296 ^^^ (K - 1)) % 4294967296 = 4294967296 - K := by
      rw [show (4294967295 : Nat) % 4294967296 = 4294967295 from rfl,
        xor_ones32 (K - 1) (by omega)]
      omega
    have e2 : ((K : Int) - 2 ^ 32).natAbs = 4294967296 - K := by omega
    have e3 : (4294967296 - K + 1) % 4294967296 = 4294967296 - K + 1 := by omega
    have hj := ilog2_lt32 (4294967296 - K + 1) (by omega)
    simp only [if_neg (Nat.not_lt.2 h), h0, e0, e1, e2, e3,
      if_neg (Nat.succ_ne_zero (4294967296 - K))]
    omega

theorem lt_two_pow_ilog2 (v : Nat) (h0 : 0 < v) (h : v < 4294967296) :
    v < 2 ^ (ilog2 v + 1) := by
  have hx : v < 2 ^ (2 ^ 12) := Nat.lt_of_lt_of_le h (by decide!)
  exact (ilog2Aux_spec 12 v h0 hx).2

theorem mul_pow_bound (sg v Ey j : Nat) (hs : sg < 2 ^ 53) (hv : v < 2 ^ (j + 1))
    (h : j + Ey ≤ 1030) : sg * 2 ^ Ey * v < 2 ^ 9 * 2 ^ 1075 := by
  have a1 : sg * 2 ^ Ey < 2 ^ 53 * 2 ^ Ey :=
    Nat.mul_lt_mul_of_pos_right hs (Nat.two_pow_pos Ey)
  have a2 : sg * 2 ^ Ey * v < 2 ^ 53 * 2 ^ Ey * 2 ^ (j + 1) :=
    Nat.mul_lt_mul_of_lt_of_le a1 (Nat.le_of_lt hv) (Nat.two_pow_pos _)
  have h0 : Ey + (j + 1) ≤ 1031 := by omega
  have h1 : 2 ^ Ey * 2 ^ (j + 1) ≤ 2 ^ 1031 := by
    rw [← Nat.pow_add]
    exact Nat.pow_le_pow_right (by decide) h0
  have a3 : 2 ^ 53 * 2 ^ Ey * 2 ^ (j + 1) ≤ 2 ^ 53 * 2 ^ 1031 := by
    rw [Nat.mul_assoc]
    exact Nat.mul_le_mul_left _ h1
  have e1 : (2 : Nat) ^ 53 = 2 ^ 9 * 2 ^ 44 := by decide
  have e2 : (2 : Nat) ^ 1075 = 2 ^ 44 * 2 ^ 1031 := by
    have e3 : 1075 = 44 + 1031 := rfl
    rw [e3, Nat.pow_add]
  rw [e2, ← Nat.mul_assoc, ← e1]
  exact Nat.lt_of_lt_of_le a2 a3

theorem pow_L4_1_branch (cpu : Cpu) (s : Machine) :
    (¬ cc_aboveEqual (fast_pow.L_2TAG_PACKET_4_0_2_1 cpu s) = true) ↔
      992 ≤ ilog2 ((toInt32 (s.get (.g eax))).natAbs + 1) + s.get (.m 16) / 2 ^ 52 % 2048 ∧
      ilog2 ((toInt32 (s.get (.g eax))).natAbs + 1) + s.get (.m 16) / 2 ^ 52 % 2048 ≤
        1030 := by
  have hF := pow_L4_1_flags cpu s
  have hE := pow_L4_1_exact cpu s
  have hj : ilog2 ((toInt32 (s.get (.g eax))).natAbs + 1) ≤ 31 := by
    apply ilog2_lt32
    simp only [toInt32]
    split_ifs <;> omega
  have hc : cc_aboveEqual (fast_pow.L_2TAG_PACKET_4_0_2_1 cpu s) = true ↔
      (fast_pow.L_2TAG_PACKET_4_0_2_1 cpu s).get .cf = 0 := by
    set_option maxRecDepth 8000 in
    simp only [
        ↓reduceIte, ↓Machine.get_setx, ↓Machine.get_setg, ↓Machine.get_setstk,
        ↓Machine.get_enter, ↓Machine.get_setFlags, ↓Machine.trace_set, ↓Machine.get_ite,
        ↓Machine.trace_ite, ↓Machine.obs_eq_get, ↓Machine.flags_get, ↓Machine.flags_trace,
        ↓sem_get_1, ↓sem_get_2, ↓sem_get_3, ↓sem_get_4, ↓sem_trace_1, ↓sem_trace_2,
        ↓sem_trace_3, ↓sem_trace_4, ↓load_const, cc_iff, ea, and_imm, and_imm_left,
        ilog2_lit, or_eq_zero, or_mod32, or_lt_2p31, Nat.mod_mod, Nat.zero_or,
        Nat.or_zero, Nat.sub_zero, Nat.add_mod_right, lane_eq, Machine.io_eq_get,
        Nat.xor_self, Loc.x.injEq, Loc.g.injEq, Loc.m.injEq, Bool.toNat_eq_zero,
        Bool.toNat_eq_one, Nat.reducePow, Nat.reduceMul, Nat.reduceMod, Nat.reduceAdd,
        Nat.reduceSub, Nat.reduceDiv, Nat.reduceEqDiff, Nat.reduceLTLE, Nat.reduceLeDiff,
        Nat.reduceLT, Nat.reduceGT, Nat.reduceOr, Nat.reduceXor, reduceCtorEq,
        Bool.not_eq_true', Bool.not_eq_true, decide_eq_true_eq, decide_eq_false_iff_not,
        Bool.and_eq_true, Bool.or_eq_true, bne_iff_ne, beq_iff_eq, ne_eq,
        Bool.not_eq_false', Bool.not_eq_false, decide_not, not_not, Bool.decide_eq_true,
        Bool.false_eq_true, Bool.true_eq_false, not_false_eq_true, not_true_eq_false,
        and_true, true_and, and_false, false_and, or_true, true_or, or_false, false_or,
        not_true, not_false_iff, iff_self, true_iff, iff_true, false_iff, iff_false,
        ite_self, decide_eq_decide, decide_False, decide_True, Bool.not_true,
        Bool.not_false]
  rw [hc, hF, hE]
  generalize ilog2 ((toInt32 (s.get (.g eax))).natAbs + 1) = j at hj ⊢
  simp only [Bool.toNat_eq_zero, decide_eq_false_iff_not, not_not, Nat.reducePow]
  omega

/-- A positive normal base outside the window around one reaches `L_2TAG_PACKET_4_0_2` with
its unbiased exponent in `eax` and `y` in its stack slot. -/
theorem pow_to_L4_normal (cpu : Cpu) (s : Machine)
    (h1 : 16 ≤ s.arg0 / 2 ^ 48) (h2 : s.arg0 / 2 ^ 48 < 32752)
    (h3 : s.arg0 / 2 ^ 48 ≠ 16367) (h4 : s.arg0 / 2 ^ 48 ≠ 16368) :
    ∃ t, fast_pow cpu s = fast_pow.L_2TAG_PACKET_4_0_2 cpu t ∧
      t.get (.m 16) = s.arg1 ∧
      toInt32 (t.get (.g eax)) = ((s.arg0 / 2 ^ 52 % 2048 : Nat) : Int) - 1023 ∧
      t.trace = [Label.L_2TAG_PACKET_3_0_2, Label.L_2TAG_PACKET_1_0_2, Label.B1_2,
        Label.start, Label.entry] ++ s.trace := by
  simp only [Machine.io_eq_get, Nat.reducePow] at h1 h2 h3 h4
  refine ⟨(fast_pow.L_2TAG_PACKET_3_0_2_1 cpu (fast_pow.L_2TAG_PACKET_1_0_2_2 cpu (fast_pow.L_2TAG_PACKET_1_0_2_1 cpu (fast_pow.B1_2_2 cpu (fast_pow.B1_2_1 cpu (fast_pow.start_1 cpu (fast_pow.entry_1 cpu s))))))), ?_, ?_, ?_, ?_⟩
  rotate_left
  · set_option maxRecDepth 8000 in
    simp only [
        ↓reduceIte, ↓fast_pow.pow_L_2TAG_PACKET_3_0_2_1_sem,
        ↓fast_pow.pow_L_2TAG_PACKET_1_0_2_2_sem, ↓fast_pow.pow_L_2TAG_PACKET_1_0_2_1_sem,
        ↓fast_pow.pow_B1_2_2_sem, ↓fast_pow.pow_B1_2_1_sem, ↓fast_pow.pow_start_1_sem,
        ↓fast_pow.pow_entry_1_sem, ↓Machine.get_setx, ↓Machine.get_setg,
        ↓Machine.get_setstk, ↓Machine.get_enter, ↓Machine.get_setFlags,
        ↓Machine.trace_set, ↓Machine.get_ite, ↓Machine.trace_ite, ↓Machine.obs_eq_get,
        ↓Machine.flags_get, ↓Machine.flags_trace, ↓sem_get_1, ↓sem_get_2, ↓sem_get_3,
        ↓sem_get_4, ↓sem_trace_1, ↓sem_trace_2, ↓sem_trace_3, ↓sem_trace_4, ↓load_const,
        cc_iff, ea, and_imm, and_imm_left, ilog2_lit, or_eq_zero, or_mod32, or_lt_2p31,
        Nat.mod_mod, Nat.zero_or, Nat.or_zero, Nat.sub_zero, Nat.add_mod_right, lane_eq,
        Machine.io_eq_get, Nat.xor_self, Loc.x.injEq, Loc.g.injEq, Loc.m.injEq,
        Bool.toNat_eq_zero, Bool.toNat_eq_one, Nat.reducePow, Nat.reduceMul,
        Nat.reduceMod, Nat.reduceAdd, Nat.reduceSub, Nat.reduceDiv, Nat.reduceEqDiff,
        Nat.reduceLTLE, Nat.reduceLeDiff, Nat.reduceLT, Nat.reduceGT, Nat.reduceOr,
        Nat.reduceXor, reduceCtorEq, Bool.not_eq_true', Bool.not_eq_true,
        decide_eq_true_eq, decide_eq_false_iff_not, Bool.and_eq_true, Bool.or_eq_true,
        bne_iff_ne, beq_iff_eq, ne_eq, Bool.not_eq_false', Bool.not_eq_false, decide_not,
        not_not, Bool.decide_eq_true, Bool.false_eq_true, Bool.true_eq_false,
        not_false_eq_true, not_true_eq_false, and_true, true_and, and_false, false_and,
        or_true, true_or, or_false, false_or, not_true, not_false_iff, iff_self, true_iff,
        iff_true, false_iff, iff_false, ite_self, decide_eq_decide, decide_False,
        decide_True, Bool.not_true, Bool.not_false]
  · simp only [toInt32]
    set_option maxRecDepth 8000 in
    simp only [
        ↓reduceIte, ↓fast_pow.pow_L_2TAG_PACKET_3_0_2_1_sem,
        ↓fast_pow.pow_L_2TAG_PACKET_1_0_2_2_sem, ↓fast_pow.pow_L_2TAG_PACKET_1_0_2_1_sem,
        ↓fast_pow.pow_B1_2_2_sem, ↓fast_pow.pow_B1_2_1_sem, ↓fast_pow.pow_start_1_sem,
        ↓fast_pow.pow_entry_1_sem, ↓Machine.get_setx, ↓Machine.get_setg,
        ↓Machine.get_setstk, ↓Machine.get_enter, ↓Machine.get_setFlags,
        ↓Machine.trace_set, ↓Machine.get_ite, ↓Machine.trace_ite, ↓Machine.obs_eq_get,
        ↓Machine.flags_get, ↓Machine.flags_trace, ↓sem_get_1, ↓sem_get_2, ↓sem_get_3,
        ↓sem_get_4, ↓sem_trace_1, ↓sem_trace_2, ↓sem_trace_3, ↓sem_trace_4, ↓load_const,
        cc_iff, ea, and_imm, and_imm_left, ilog2_lit, or_eq_zero, or_mod32, or_lt_2p31,
        Nat.mod_mod, Nat.zero_or, Nat.or_zero, Nat.sub_zero, Nat.add_mod_right, lane_eq,
        Machine.io_eq_get, Nat.xor_self, Loc.x.injEq, Loc.g.injEq, Loc.m.injEq,
        Bool.toNat_eq_zero, Bool.toNat_eq_one, Nat.reducePow, Nat.reduceMul,
        Nat.reduceMod, Nat.reduceAdd, Nat.reduceSub, Nat.reduceDiv, Nat.reduceEqDiff,
        Nat.reduceLTLE, Nat.reduceLeDiff, Nat.reduceLT, Nat.reduceGT, Nat.reduceOr,
        Nat.reduceXor, reduceCtorEq, Bool.not_eq_true', Bool.not_eq_true,
        decide_eq_true_eq, decide_eq_false_iff_not, Bool.and_eq_true, Bool.or_eq_true,
        bne_iff_ne, beq_iff_eq, ne_eq, Bool.not_eq_false', Bool.not_eq_false, decide_not,
        not_not, Bool.decide_eq_true, Bool.false_eq_true, Bool.true_eq_false,
        not_false_eq_true, not_true_eq_false, and_true, true_and, and_false, false_and,
        or_true, true_or, or_false, false_or, not_true, not_false_iff, iff_self, true_iff,
        iff_true, false_iff, iff_false, ite_self, decide_eq_decide, decide_False,
        decide_True, Bool.not_true, Bool.not_false]
    split_ifs <;> omega
  · set_option maxRecDepth 8000 in
    simp only [
        ↓reduceIte, ↓fast_pow.pow_L_2TAG_PACKET_3_0_2_1_sem,
        ↓fast_pow.pow_L_2TAG_PACKET_1_0_2_2_sem, ↓fast_pow.pow_L_2TAG_PACKET_1_0_2_1_sem,
        ↓fast_pow.pow_B1_2_2_sem, ↓fast_pow.pow_B1_2_1_sem, ↓fast_pow.pow_start_1_sem,
        ↓fast_pow.pow_entry_1_sem, ↓Machine.get_setx, ↓Machine.get_setg,
        ↓Machine.get_setstk, ↓Machine.get_enter, ↓Machine.get_setFlags,
        ↓Machine.trace_set, ↓Machine.get_ite, ↓Machine.trace_ite, ↓Machine.obs_eq_get,
        ↓Machine.flags_get, ↓Machine.flags_trace, ↓sem_get_1, ↓sem_get_2, ↓sem_get_3,
        ↓sem_get_4, ↓sem_trace_1, ↓sem_trace_2, ↓sem_trace_3, ↓sem_trace_4, ↓load_const,
        cc_iff, ea, and_imm, and_imm_left, ilog2_lit, or_eq_zero, or_mod32, or_lt_2p31,
        Nat.mod_mod, Nat.zero_or, Nat.or_zero, Nat.sub_zero, Nat.add_mod_right, lane_eq,
        Machine.io_eq_get, Nat.xor_self, Loc.x.injEq, Loc.g.injEq, Loc.m.injEq,
        Bool.toNat_eq_zero, Bool.toNat_eq_one, Nat.reducePow, Nat.reduceMul,
        Nat.reduceMod, Nat.reduceAdd, Nat.reduceSub, Nat.reduceDiv, Nat.reduceEqDiff,
        Nat.reduceLTLE, Nat.reduceLeDiff, Nat.reduceLT, Nat.reduceGT, Nat.reduceOr,
        Nat.reduceXor, reduceCtorEq, Bool.not_eq_true', Bool.not_eq_true,
        decide_eq_true_eq, decide_eq_false_iff_not, Bool.and_eq_true, Bool.or_eq_true,
        bne_iff_ne, beq_iff_eq, ne_eq, Bool.not_eq_false', Bool.not_eq_false, decide_not,
        not_not, Bool.decide_eq_true, Bool.false_eq_true, Bool.true_eq_false,
        not_false_eq_true, not_true_eq_false, and_true, true_and, and_false, false_and,
        or_true, true_or, or_false, false_or, not_true, not_false_iff, iff_self, true_iff,
        iff_true, false_iff, iff_false, ite_self, decide_eq_decide, decide_False,
        decide_True, Bool.not_true, Bool.not_false]
    simp
  rw [
      fast_pow, fast_pow.pow_entry_eq, fast_pow.pow_start_eq, fast_pow.pow_B1_2_eq, if_neg,
      fast_pow.pow_L_2TAG_PACKET_1_0_2_eq, if_neg, fast_pow.pow_L_2TAG_PACKET_3_0_2_eq]
  · set_option maxRecDepth 8000 in
    simp only [
        ↓reduceIte, ↓fast_pow.pow_L_2TAG_PACKET_1_0_2_1_sem, ↓fast_pow.pow_B1_2_2_sem,
        ↓fast_pow.pow_B1_2_1_sem, ↓fast_pow.pow_start_1_sem, ↓fast_pow.pow_entry_1_sem,
        ↓Machine.get_setx, ↓Machine.get_setg, ↓Machine.get_setstk, ↓Machine.get_enter,
        ↓Machine.get_setFlags, ↓Machine.trace_set, ↓Machine.get_ite, ↓Machine.trace_ite,
        ↓Machine.obs_eq_get, ↓Machine.flags_get, ↓Machine.flags_trace, ↓sem_get_1,
        ↓sem_get_2, ↓sem_get_3, ↓sem_get_4, ↓sem_trace_1, ↓sem_trace_2, ↓sem_trace_3,
        ↓sem_trace_4, ↓load_const, cc_iff, ea, and_imm, and_imm_left, ilog2_lit,
        or_eq_zero, or_mod32, or_lt_2p31, Nat.mod_mod, Nat.zero_or, Nat.or_zero,
        Nat.sub_zero, Nat.add_mod_right, lane_eq, Machine.io_eq_get, Nat.xor_self,
        Loc.x.injEq, Loc.g.injEq, Loc.m.injEq, Bool.toNat_eq_zero, Bool.toNat_eq_one,
        Nat.reducePow, Nat.reduceMul, Nat.reduceMod, Nat.reduceAdd, Nat.reduceSub,
        Nat.reduceDiv, Nat.reduceEqDiff, Nat.reduceLTLE, Nat.reduceLeDiff, Nat.reduceLT,
        Nat.reduceGT, Nat.reduceOr, Nat.reduceXor, reduceCtorEq, Bool.not_eq_true',
        Bool.not_eq_true, decide_eq_true_eq, decide_eq_false_iff_not, Bool.and_eq_true,
        Bool.or_eq_true, bne_iff_ne, beq_iff_eq, ne_eq, Bool.not_eq_false',
        Bool.not_eq_false, decide_not, not_not, Bool.decide_eq_true, Bool.false_eq_true,
        Bool.true_eq_false, not_false_eq_true, not_true_eq_false, and_true, true_and,
        and_false, false_and, or_true, true_or, or_false, false_or, not_true,
        not_false_iff, iff_self, true_iff, iff_true, false_iff, iff_false, ite_self,
        decide_eq_decide, decide_False, decide_True, Bool.not_true, Bool.not_false]
    all_goals omega
  · set_option maxRecDepth 8000 in
    simp only [
        ↓reduceIte, ↓fast_pow.pow_B1_2_1_sem, ↓fast_pow.pow_start_1_sem,
        ↓fast_pow.pow_entry_1_sem, ↓Machine.get_setx, ↓Machine.get_setg,
        ↓Machine.get_setstk, ↓Machine.get_enter, ↓Machine.get_setFlags,
        ↓Machine.trace_set, ↓Machine.get_ite, ↓Machine.trace_ite, ↓Machine.obs_eq_get,
        ↓Machine.flags_get, ↓Machine.flags_trace, ↓sem_get_1, ↓sem_get_2, ↓sem_get_3,
        ↓sem_get_4, ↓sem_trace_1, ↓sem_trace_2, ↓sem_trace_3, ↓sem_trace_4, ↓load_const,
        cc_iff, ea, and_imm, and_imm_left, ilog2_lit, or_eq_zero, or_mod32, or_lt_2p31,
        Nat.mod_mod, Nat.zero_or, Nat.or_zero, Nat.sub_zero, Nat.add_mod_right, lane_eq,
        Machine.io_eq_get, Nat.xor_self, Loc.x.injEq, Loc.g.injEq, Loc.m.injEq,
        Bool.toNat_eq_zero, Bool.toNat_eq_one, Nat.reducePow, Nat.reduceMul,
        Nat.reduceMod, Nat.reduceAdd, Nat.reduceSub, Nat.reduceDiv, Nat.reduceEqDiff,
        Nat.reduceLTLE, Nat.reduceLeDiff, Nat.reduceLT, Nat.reduceGT, Nat.reduceOr,
        Nat.reduceXor, reduceCtorEq, Bool.not_eq_true', Bool.not_eq_true,
        decide_eq_true_eq, decide_eq_false_iff_not, Bool.and_eq_true, Bool.or_eq_true,
        bne_iff_ne, beq_iff_eq, ne_eq, Bool.not_eq_false', Bool.not_eq_false, decide_not,
        not_not, Bool.decide_eq_true, Bool.false_eq_true, Bool.true_eq_false,
        not_false_eq_true, not_true_eq_false, and_true, true_and, and_false, false_and,
        or_true, true_or, or_false, false_or, not_true, not_false_iff, iff_self, true_iff,
        iff_true, false_iff, iff_false, ite_self, decide_eq_decide, decide_False,
        decide_True, Bool.not_true, Bool.not_false]
    all_goals omega

/-! ### Paths of `fast_pow` to the block of infinite and NaN exponents -/

set_option maxHeartbeats 1000000 in
/-- A positive subnormal base with an exponent whose exponent field is all ones reaches
`L_2TAG_PACKET_45_0_2` with both arguments in their stack slots. -/
theorem pow_to_L45_denormal (cpu : Cpu) (s : Machine)
    (h1 : 0 < s.arg0) (h2 : s.arg0 / 2 ^ 48 < 16)
    (hy : s.arg1 / 2 ^ 52 % 2048 = 2047) :
    ∃ t, fast_pow cpu s = fast_pow.L_2TAG_PACKET_45_0_2 cpu t ∧
      t.get (.m 8) = s.arg0 ∧ t.get (.m 16) = s.arg1 := by
  simp only [Machine.io_eq_get, Nat.reducePow] at h1 h2 hy
  have hE := pow_L4_1_eax cpu (fast_pow.L_2TAG_PACKET_8_0_2_2 cpu (fast_pow.L_2TAG_PACKET_8_0_2_1 cpu (fast_pow.L_2TAG_PACKET_0_0_2_3 cpu (fast_pow.L_2TAG_PACKET_0_0_2_2 cpu (fast_pow.L_2TAG_PACKET_0_0_2_1 cpu (fast_pow.B1_2_1 cpu (fast_pow.start_1 cpu (fast_pow.entry_1 cpu s))))))))
  have hF := pow_L4_1_flags cpu (fast_pow.L_2TAG_PACKET_8_0_2_2 cpu (fast_pow.L_2TAG_PACKET_8_0_2_1 cpu (fast_pow.L_2TAG_PACKET_0_0_2_3 cpu (fast_pow.L_2TAG_PACKET_0_0_2_2 cpu (fast_pow.L_2TAG_PACKET_0_0_2_1 cpu (fast_pow.B1_2_1 cpu (fast_pow.start_1 cpu (fast_pow.entry_1 cpu s))))))))
  set_option maxRecDepth 8000 in
  simp only [
      ↓reduceIte, ↓fast_pow.pow_L_2TAG_PACKET_8_0_2_2_sem,
      ↓fast_pow.pow_L_2TAG_PACKET_8_0_2_1_sem, ↓fast_pow.pow_L_2TAG_PACKET_0_0_2_3_sem,
      ↓fast_pow.pow_L_2TAG_PACKET_0_0_2_2_sem, ↓fast_pow.pow_L_2TAG_PACKET_0_0_2_1_sem,
      ↓fast_pow.pow_B1_2_1_sem, ↓fast_pow.pow_start_1_sem, ↓fast_pow.pow_entry_1_sem,
      ↓Machine.get_setx, ↓Machine.get_setg, ↓Machine.get_setstk, ↓Machine.get_enter,
      ↓Machine.get_setFlags, ↓Machine.trace_set, ↓Machine.get_ite, ↓Machine.trace_ite,
      ↓Machine.obs_eq_get, ↓Machine.flags_get, ↓Machine.flags_trace, ↓sem_get_1, ↓sem_get_2,
      ↓sem_get_3, ↓sem_get_4, ↓sem_trace_1, ↓sem_trace_2, ↓sem_trace_3, ↓sem_trace_4,
      ↓load_const, cc_iff, ea, and_imm, and_imm_left, ilog2_lit, or_eq_zero, or_mod32,
      or_lt_2p31, Nat.mod_mod, Nat.zero_or, Nat.or_zero, Nat.sub_zero, Nat.add_mod_right,
      lane_eq, Machine.io_eq_get, Nat.xor_self, Loc.x.injEq, Loc.g.injEq, Loc.m.injEq,
      Bool.toNat_eq_zero, Bool.toNat_eq_one, Nat.reducePow, Nat.reduceMul, Nat.reduceMod,
      Nat.reduceAdd, Nat.reduceSub, Nat.reduceDiv, Nat.reduceEqDiff, Nat.reduceLTLE,
      Nat.reduceLeDiff, Nat.reduceLT, Nat.reduceGT, Nat.reduceOr, Nat.reduceXor,
      reduceCtorEq, Bool.not_eq_true', Bool.not_eq_true, decide_eq_true_eq,
      decide_eq_false_iff_not, Bool.and_eq_true, Bool.or_eq_true, bne_iff_ne, beq_iff_eq,
      ne_eq, Bool.not_eq_false', Bool.not_eq_false, decide_not, not_not,
      Bool.decide_eq_true, Bool.false_eq_true, Bool.true_eq_false, not_false_eq_true,
      not_true_eq_false, and_true, true_and, and_false, false_and, or_true, true_or,
      or_false, false_or, not_true, not_false_iff, iff_self, true_iff, iff_true, false_iff,
      iff_false, ite_self, decide_eq_decide, decide_False, decide_True, Bool.not_true,
      Bool.not_false] at hE
  refine ⟨(fast_pow.L_2TAG_PACKET_12_0_2_1 cpu (fast_pow.L_2TAG_PACKET_5_0_2_2 cpu (fast_pow.L_2TAG_PACKET_5_0_2_1 cpu (fast_pow.L_2TAG_PACKET_4_0_2_1 cpu (fast_pow.L_2TAG_PACKET_8_0_2_2 cpu (fast_pow.L_2TAG_PACKET_8_0_2_1 cpu (fast_pow.L_2TAG_PACKET_0_0_2_3 cpu (fast_pow.L_2TAG_PACKET_0_0_2_2 cpu (fast_pow.L_2TAG_PACKET_0_0_2_1 cpu (fast_pow.B1_2_1 cpu (fast_pow.start_1 cpu (fast_pow.entry_1 cpu s)))))))))))), ?_, ?_, ?_⟩
  rotate_left
  · set_option maxRecDepth 8000 in
    simp only [
        ↓reduceIte, pow_L4_1_frame, ↓fast_pow.pow_L_2TAG_PACKET_12_0_2_1_sem,
        ↓fast_pow.pow_L_2TAG_PACKET_5_0_2_2_sem, ↓fast_pow.pow_L_2TAG_PACKET_5_0_2_1_sem,
        ↓fast_pow.pow_L_2TAG_PACKET_8_0_2_2_sem, ↓fast_pow.pow_L_2TAG_PACKET_8_0_2_1_sem,
        ↓fast_pow.pow_L_2TAG_PACKET_0_0_2_3_sem, ↓fast_pow.pow_L_2TAG_PACKET_0_0_2_2_sem,
        ↓fast_pow.pow_L_2TAG_PACKET_0_0_2_1_sem, ↓fast_pow.pow_B1_2_1_sem,
        ↓fast_pow.pow_start_1_sem, ↓fast_pow.pow_entry_1_sem, ↓Machine.get_setx,
        ↓Machine.get_setg, ↓Machine.get_setstk, ↓Machine.get_enter, ↓Machine.get_setFlags,
        ↓Machine.trace_set, ↓Machine.get_ite, ↓Machine.trace_ite, ↓Machine.obs_eq_get,
        ↓Machine.flags_get, ↓Machine.flags_trace, ↓sem_get_1, ↓sem_get_2, ↓sem_get_3,
        ↓sem_get_4, ↓sem_trace_1, ↓sem_trace_2, ↓sem_trace_3, ↓sem_trace_4, ↓load_const,
        cc_iff, ea, and_imm, and_imm_left, ilog2_lit, or_eq_zero, or_mod32, or_lt_2p31,
        Nat.mod_mod, Nat.zero_or, Nat.or_zero, Nat.sub_zero, Nat.add_mod_right, lane_eq,
        Machine.io_eq_get, Nat.xor_self, Loc.x.injEq, Loc.g.injEq, Loc.m.injEq,
        Bool.toNat_eq_zero, Bool.toNat_eq_one, Nat.reducePow, Nat.reduceMul,
        Nat.reduceMod, Nat.reduceAdd, Nat.reduceSub, Nat.reduceDiv, Nat.reduceEqDiff,
        Nat.reduceLTLE, Nat.reduceLeDiff, Nat.reduceLT, Nat.reduceGT, Nat.reduceOr,
        Nat.reduceXor, reduceCtorEq, Bool.not_eq_true', Bool.not_eq_true,
        decide_eq_true_eq, decide_eq_false_iff_not, Bool.and_eq_true, Bool.or_eq_true,
        bne_iff_ne, beq_iff_eq, ne_eq, Bool.not_eq_false', Bool.not_eq_false, decide_not,
        not_not, Bool.decide_eq_true, Bool.false_eq_true, Bool.true_eq_false,
        not_false_eq_true, not_true_eq_false, and_true, true_and, and_false, false_and,
        or_true, true_or, or_false, false_or, not_true, not_false_iff, iff_self, true_iff,
        iff_true, false_iff, iff_false, ite_self, decide_eq_decide, decide_False,
        decide_True, Bool.not_true, Bool.not_false]
  · set_option maxRecDepth 8000 in
    simp only [
        ↓reduceIte, pow_L4_1_frame, ↓fast_pow.pow_L_2TAG_PACKET_12_0_2_1_sem,
        ↓fast_pow.pow_L_2TAG_PACKET_5_0_2_2_sem, ↓fast_pow.pow_L_2TAG_PACKET_5_0_2_1_sem,
        ↓fast_pow.pow_L_2TAG_PACKET_8_0_2_2_sem, ↓fast_pow.pow_L_2TAG_PACKET_8_0_2_1_sem,
        ↓fast_pow.pow_L_2TAG_PACKET_0_0_2_3_sem, ↓fast_pow.pow_L_2TAG_PACKET_0_0_2_2_sem,
        ↓fast_pow.pow_L_2TAG_PACKET_0_0_2_1_sem, ↓fast_pow.pow_B1_2_1_sem,
        ↓fast_pow.pow_start_1_sem, ↓fast_pow.pow_entry_1_sem, ↓Machine.get_setx,
        ↓Machine.get_setg, ↓Machine.get_setstk, ↓Machine.get_enter, ↓Machine.get_setFlags,
        ↓Machine.trace_set, ↓Machine.get_ite, ↓Machine.trace_ite, ↓Machine.obs_eq_get,
        ↓Machine.flags_get, ↓Machine.flags_trace, ↓sem_get_1, ↓sem_get_2, ↓sem_get_3,
        ↓sem_get_4, ↓sem_trace_1, ↓sem_trace_2, ↓sem_trace_3, ↓sem_trace_4, ↓load_const,
        cc_iff, ea, and_imm, and_imm_left, ilog2_lit, or_eq_zero, or_mod32, or_lt_2p31,
        Nat.mod_mod, Nat.zero_or, Nat.or_zero, Nat.sub_zero, Nat.add_mod_right, lane_eq,
        Machine.io_eq_get, Nat.xor_self, Loc.x.injEq, Loc.g.injEq, Loc.m.injEq,
        Bool.toNat_eq_zero, Bool.toNat_eq_one, Nat.reducePow, Nat.reduceMul,
        Nat.reduceMod, Nat.reduceAdd, Nat.reduceSub, Nat.reduceDiv, Nat.reduceEqDiff,
        Nat.reduceLTLE, Nat.reduceLeDiff, Nat.reduceLT, Nat.reduceGT, Nat.reduceOr,
        Nat.reduceXor, reduceCtorEq, Bool.not_eq_true', Bool.not_eq_true,
        decide_eq_true_eq, decide_eq_false_iff_not, Bool.and_eq_true, Bool.or_eq_true,
        bne_iff_ne, beq_iff_eq, ne_eq, Bool.not_eq_false', Bool.not_eq_false, decide_not,
        not_not, Bool.decide_eq_true, Bool.false_eq_true, Bool.true_eq_false,
        not_false_eq_true, not_true_eq_false, and_true, true_and, and_false, false_and,
        or_true, true_or, or_false, false_or, not_true, not_false_iff, iff_self, true_iff,
        iff_true, false_iff, iff_false, ite_self, decide_eq_decide, decide_False,
        decide_True, Bool.not_true, Bool.not_false]
  rw [
      fast_pow, fast_pow.pow_entry_eq, fast_pow.pow_start_eq, fast_pow.pow_B1_2_eq, if_pos,
      fast_pow.pow_L_2TAG_PACKET_0_0_2_eq, if_neg, if_neg,
      fast_pow.pow_L_2TAG_PACKET_8_0_2_eq, if_neg, fast_pow.pow_L_2TAG_PACKET_4_0_2_eq,
      if_pos, fast_pow.pow_L_2TAG_PACKET_5_0_2_eq, if_neg, if_pos,
      fast_pow.pow_L_2TAG_PACKET_12_0_2_eq, if_pos]
  · set_option maxRecDepth 8000 in
    simp only [
        ↓reduceIte, hF, pow_L4_1_frame, ↓fast_pow.pow_L_2TAG_PACKET_12_0_2_1_sem,
        ↓fast_pow.pow_L_2TAG_PACKET_5_0_2_2_sem, ↓fast_pow.pow_L_2TAG_PACKET_5_0_2_1_sem,
        ↓fast_pow.pow_L_2TAG_PACKET_8_0_2_2_sem, ↓fast_pow.pow_L_2TAG_PACKET_8_0_2_1_sem,
        ↓fast_pow.pow_L_2TAG_PACKET_0_0_2_3_sem, ↓fast_pow.pow_L_2TAG_PACKET_0_0_2_2_sem,
        ↓fast_pow.pow_L_2TAG_PACKET_0_0_2_1_sem, ↓fast_pow.pow_B1_2_1_sem,
        ↓fast_pow.pow_start_1_sem, ↓fast_pow.pow_entry_1_sem, ↓Machine.get_setx,
        ↓Machine.get_setg, ↓Machine.get_setstk, ↓Machine.get_enter, ↓Machine.get_setFlags,
        ↓Machine.trace_set, ↓Machine.get_ite, ↓Machine.trace_ite, ↓Machine.obs_eq_get,
        ↓Machine.flags_get, ↓Machine.flags_trace, ↓sem_get_1, ↓sem_get_2, ↓sem_get_3,
        ↓sem_get_4, ↓sem_trace_1, ↓sem_trace_2, ↓sem_trace_3, ↓sem_trace_4, ↓load_const,
        cc_iff, ea, and_imm, and_imm_left, ilog2_lit, or_eq_zero, or_mod32, or_lt_2p31,
        Nat.mod_mod, Nat.zero_or, Nat.or_zero, Nat.sub_zero, Nat.add_mod_right, lane_eq,
        Machine.io_eq_get, Nat.xor_self, Loc.x.injEq, Loc.g.injEq, Loc.m.injEq,
        Bool.toNat_eq_zero, Bool.toNat_eq_one, Nat.reducePow, Nat.reduceMul,
        Nat.reduceMod, Nat.reduceAdd, Nat.reduceSub, Nat.reduceDiv, Nat.reduceEqDiff,
        Nat.reduceLTLE, Nat.reduceLeDiff, Nat.reduceLT, Nat.reduceGT, Nat.reduceOr,
        Nat.reduceXor, reduceCtorEq, Bool.not_eq_true', Bool.not_eq_true,
        decide_eq_true_eq, decide_eq_false_iff_not, Bool.and_eq_true, Bool.or_eq_true,
        bne_iff_ne, beq_iff_eq, ne_eq, Bool.not_eq_false', Bool.not_eq_false, decide_not,
        not_not, Bool.decide_eq_true, Bool.false_eq_true, Bool.true_eq_false,
        not_false_eq_true, not_true_eq_false, and_true, true_and, and_false, false_and,
        or_true, true_or, or_false, false_or, not_true, not_false_iff, iff_self, true_iff,
        iff_true, false_iff, iff_false, ite_self, decide_eq_decide, decide_False,
        decide_True, Bool.not_true, Bool.not_false]
    all_goals omega
  · set_option maxRecDepth 8000 in
    simp only [
        ↓reduceIte, hF, pow_L4_1_frame, ↓fast_pow.pow_L_2TAG_PACKET_5_0_2_2_sem,
        ↓fast_pow.pow_L_2TAG_PACKET_5_0_2_1_sem, ↓fast_pow.pow_L_2TAG_PACKET_8_0_2_2_sem,
        ↓fast_pow.pow_L_2TAG_PACKET_8_0_2_1_sem, ↓fast_pow.pow_L_2TAG_PACKET_0_0_2_3_sem,
        ↓fast_pow.pow_L_2TAG_PACKET_0_0_2_2_sem, ↓fast_pow.pow_L_2TAG_PACKET_0_0_2_1_sem,
        ↓fast_pow.pow_B1_2_1_sem, ↓fast_pow.pow_start_1_sem, ↓fast_pow.pow_entry_1_sem,
        ↓Machine.get_setx, ↓Machine.get_setg, ↓Machine.get_setstk, ↓Machine.get_enter,
        ↓Machine.get_setFlags, ↓Machine.trace_set, ↓Machine.get_ite, ↓Machine.trace_ite,
        ↓Machine.obs_eq_get, ↓Machine.flags_get, ↓Machine.flags_trace, ↓sem_get_1,
        ↓sem_get_2, ↓sem_get_3, ↓sem_get_4, ↓sem_trace_1, ↓sem_trace_2, ↓sem_trace_3,
        ↓sem_trace_4, ↓load_const, cc_iff, ea, and_imm, and_imm_left, ilog2_lit,
        or_eq_zero, or_mod32, or_lt_2p31, Nat.mod_mod, Nat.zero_or, Nat.or_zero,
        Nat.sub_zero, Nat.add_mod_right, lane_eq, Machine.io_eq_get, Nat.xor_self,
        Loc.x.injEq, Loc.g.injEq, Loc.m.injEq, Bool.toNat_eq_zero, Bool.toNat_eq_one,
        Nat.reducePow, Nat.reduceMul, Nat.reduceMod, Nat.reduceAdd, Nat.reduceSub,
        Nat.reduceDiv, Nat.reduceEqDiff, Nat.reduceLTLE, Nat.reduceLeDiff, Nat.reduceLT,
        Nat.reduceGT, Nat.reduceOr, Nat.reduceXor, reduceCtorEq, Bool.not_eq_true',
        Bool.not_eq_true, decide_eq_true_eq, decide_eq_false_iff_not, Bool.and_eq_true,
        Bool.or_eq_true, bne_iff_ne, beq_iff_eq, ne_eq, Bool.not_eq_false',
        Bool.not_eq_false, decide_not, not_not, Bool.decide_eq_true, Bool.false_eq_true,
        Bool.true_eq_false, not_false_eq_true, not_true_eq_false, and_true, true_and,
        and_false, false_and, or_true, true_or, or_false, false_or, not_true,
        not_false_iff, iff_self, true_iff, iff_true, false_iff, iff_false, ite_self,
        decide_eq_decide, decide_False, decide_True, Bool.not_true, Bool.not_false]
    all_goals omega
  · set_option maxRecDepth 8000 in
    simp only [
        ↓reduceIte, hF, pow_L4_1_frame, ↓fast_pow.pow_L_2TAG_PACKET_5_0_2_1_sem,
        ↓fast_pow.pow_L_2TAG_PACKET_8_0_2_2_sem, ↓fast_pow.pow_L_2TAG_PACKET_8_0_2_1_sem,
        ↓fast_pow.pow_L_2TAG_PACKET_0_0_2_3_sem, ↓fast_pow.pow_L_2TAG_PACKET_0_0_2_2_sem,
        ↓fast_pow.pow_L_2TAG_PACKET_0_0_2_1_sem, ↓fast_pow.pow_B1_2_1_sem,
        ↓fast_pow.pow_start_1_sem, ↓fast_pow.pow_entry_1_sem, ↓Machine.get_setx,
        ↓Machine.get_setg, ↓Machine.get_setstk, ↓Machine.get_enter, ↓Machine.get_setFlags,
        ↓Machine.trace_set, ↓Machine.get_ite, ↓Machine.trace_ite, ↓Machine.obs_eq_get,
        ↓Machine.flags_get, ↓Machine.flags_trace, ↓sem_get_1, ↓sem_get_2, ↓sem_get_3,
        ↓sem_get_4, ↓sem_trace_1, ↓sem_trace_2, ↓sem_trace_3, ↓sem_trace_4, ↓load_const,
        cc_iff, ea, and_imm, and_imm_left, ilog2_lit, or_eq_zero, or_mod32, or_lt_2p31,
        Nat.mod_mod, Nat.zero_or, Nat.or_zero, Nat.sub_zero, Nat.add_mod_right, lane_eq,
        Machine.io_eq_get, Nat.xor_self, Loc.x.injEq, Loc.g.injEq, Loc.m.injEq,
        Bool.toNat_eq_zero, Bool.toNat_eq_one, Nat.reducePow, Nat.reduceMul,
        Nat.reduceMod, Nat.reduceAdd, Nat.reduceSub, Nat.reduceDiv, Nat.reduceEqDiff,
        Nat.reduceLTLE, Nat.reduceLeDiff, Nat.reduceLT, Nat.reduceGT, Nat.reduceOr,
        Nat.reduceXor, reduceCtorEq, Bool.not_eq_true', Bool.not_eq_true,
        decide_eq_true_eq, decide_eq_false_iff_not, Bool.and_eq_true, Bool.or_eq_true,
        bne_iff_ne, beq_iff_eq, ne_eq, Bool.not_eq_false', Bool.not_eq_false, decide_not,
        not_not, Bool.decide_eq_true, Bool.false_eq_true, Bool.true_eq_false,
        not_false_eq_true, not_true_eq_false, and_true, true_and, and_false, false_and,
        or_true, true_or, or_false, false_or, not_true, not_false_iff, iff_self, true_iff,
        iff_true, false_iff, iff_false, ite_self, decide_eq_decide, decide_False,
        decide_True, Bool.not_true, Bool.not_false]
    all_goals omega
  · set_option maxRecDepth 8000 in
    simp only [
        ↓reduceIte, hF, pow_L4_1_frame, ↓fast_pow.pow_L_2TAG_PACKET_8_0_2_2_sem,
        ↓fast_pow.pow_L_2TAG_PACKET_8_0_2_1_sem, ↓fast_pow.pow_L_2TAG_PACKET_0_0_2_3_sem,
        ↓fast_pow.pow_L_2TAG_PACKET_0_0_2_2_sem, ↓fast_pow.pow_L_2TAG_PACKET_0_0_2_1_sem,
        ↓fast_pow.pow_B1_2_1_sem, ↓fast_pow.pow_start_1_sem, ↓fast_pow.pow_entry_1_sem,
        ↓Machine.get_setx, ↓Machine.get_setg, ↓Machine.get_setstk, ↓Machine.get_enter,
        ↓Machine.get_setFlags, ↓Machine.trace_set, ↓Machine.get_ite, ↓Machine.trace_ite,
        ↓Machine.obs_eq_get, ↓Machine.flags_get, ↓Machine.flags_trace, ↓sem_get_1,
        ↓sem_get_2, ↓sem_get_3, ↓sem_get_4, ↓sem_trace_1, ↓sem_trace_2, ↓sem_trace_3,
        ↓sem_trace_4, ↓load_const, cc_iff, ea, and_imm, and_imm_left, ilog2_lit,
        or_eq_zero, or_mod32, or_lt_2p31, Nat.mod_mod, Nat.zero_or, Nat.or_zero,
        Nat.sub_zero, Nat.add_mod_right, lane_eq, Machine.io_eq_get, Nat.xor_self,
        Loc.x.injEq, Loc.g.injEq, Loc.m.injEq, Bool.toNat_eq_zero, Bool.toNat_eq_one,
        Nat.reducePow, Nat.reduceMul, Nat.reduceMod, Nat.reduceAdd, Nat.reduceSub,
        Nat.reduceDiv, Nat.reduceEqDiff, Nat.reduceLTLE, Nat.reduceLeDiff, Nat.reduceLT,
        Nat.reduceGT, Nat.reduceOr, Nat.reduceXor, reduceCtorEq, Bool.not_eq_true',
        Bool.not_eq_true, decide_eq_true_eq, decide_eq_false_iff_not, Bool.and_eq_true,
        Bool.or_eq_true, bne_iff_ne, beq_iff_eq, ne_eq, Bool.not_eq_false',
        Bool.not_eq_false, decide_not, not_not, Bool.decide_eq_true, Bool.false_eq_true,
        Bool.true_eq_false, not_false_eq_true, not_true_eq_false, and_true, true_and,
        and_false, false_and, or_true, true_or, or_false, false_or, not_true,
        not_false_iff, iff_self, true_iff, iff_true, false_iff, iff_false, ite_self,
        decide_eq_decide, decide_False, decide_True, Bool.not_true, Bool.not_false]
    all_goals omega
  · set_option maxRecDepth 8000 in
    simp only [
        ↓reduceIte, hF, pow_L4_1_frame, ↓fast_pow.pow_L_2TAG_PACKET_8_0_2_1_sem,
        ↓fast_pow.pow_L_2TAG_PACKET_0_0_2_3_sem, ↓fast_pow.pow_L_2TAG_PACKET_0_0_2_2_sem,
        ↓fast_pow.pow_L_2TAG_PACKET_0_0_2_1_sem, ↓fast_pow.pow_B1_2_1_sem,
        ↓fast_pow.pow_start_1_sem, ↓fast_pow.pow_entry_1_sem, ↓Machine.get_setx,
        ↓Machine.get_setg, ↓Machine.get_setstk, ↓Machine.get_enter, ↓Machine.get_setFlags,
        ↓Machine.trace_set, ↓Machine.get_ite, ↓Machine.trace_ite, ↓Machine.obs_eq_get,
        ↓Machine.flags_get, ↓Machine.flags_trace, ↓sem_get_1, ↓sem_get_2, ↓sem_get_3,
        ↓sem_get_4, ↓sem_trace_1, ↓sem_trace_2, ↓sem_trace_3, ↓sem_trace_4, ↓load_const,
        cc_iff, ea, and_imm, and_imm_left, ilog2_lit, or_eq_zero, or_mod32, or_lt_2p31,
        Nat.mod_mod, Nat.zero_or, Nat.or_zero, Nat.sub_zero, Nat.add_mod_right, lane_eq,
        Machine.io_eq_get, Nat.xor_self, Loc.x.injEq, Loc.g.injEq, Loc.m.injEq,
        Bool.toNat_eq_zero, Bool.toNat_eq_one, Nat.reducePow, Nat.reduceMul,
        Nat.reduceMod, Nat.reduceAdd, Nat.reduceSub, Nat.reduceDiv, Nat.reduceEqDiff,
        Nat.reduceLTLE, Nat.reduceLeDiff, Nat.reduceLT, Nat.reduceGT, Nat.reduceOr,
        Nat.reduceXor, reduceCtorEq, Bool.not_eq_true', Bool.not_eq_true,
        decide_eq_true_eq, decide_eq_false_iff_not, Bool.and_eq_true, Bool.or_eq_true,
        bne_iff_ne, beq_iff_eq, ne_eq, Bool.not_eq_false', Bool.not_eq_false, decide_not,
        not_not, Bool.decide_eq_true, Bool.false_eq_true, Bool.true_eq_false,
        not_false_eq_true, not_true_eq_false, and_true, true_and, and_false, false_and,
        or_true, true_or, or_false, false_or, not_true, not_false_iff, iff_self, true_iff,
        iff_true, false_iff, iff_false, ite_self, decide_eq_decide, decide_False,
        decide_True, Bool.not_true, Bool.not_false]
    all_goals omega
  · set_option maxRecDepth 8000 in
    simp only [
        ↓reduceIte, hF, pow_L4_1_frame, ↓fast_pow.pow_L_2TAG_PACKET_0_0_2_2_sem,
        ↓fast_pow.pow_L_2TAG_PACKET_0_0_2_1_sem, ↓fast_pow.pow_B1_2_1_sem,
        ↓fast_pow.pow_start_1_sem, ↓fast_pow.pow_entry_1_sem, ↓Machine.get_setx,
        ↓Machine.get_setg, ↓Machine.get_setstk, ↓Machine.get_enter, ↓Machine.get_setFlags,
        ↓Machine.trace_set, ↓Machine.get_ite, ↓Machine.trace_ite, ↓Machine.obs_eq_get,
        ↓Machine.flags_get, ↓Machine.flags_trace, ↓sem_get_1, ↓sem_get_2, ↓sem_get_3,
        ↓sem_get_4, ↓sem_trace_1, ↓sem_trace_2, ↓sem_trace_3, ↓sem_trace_4, ↓load_const,
        cc_iff, ea, and_imm, and_imm_left, ilog2_lit, or_eq_zero, or_mod32, or_lt_2p31,
        Nat.mod_mod, Nat.zero_or, Nat.or_zero, Nat.sub_zero, Nat.add_mod_right, lane_eq,
        Machine.io_eq_get, Nat.xor_self, Loc.x.injEq, Loc.g.injEq, Loc.m.injEq,
        Bool.toNat_eq_zero, Bool.toNat_eq_one, Nat.reducePow, Nat.reduceMul,
        Nat.reduceMod, Nat.reduceAdd, Nat.reduceSub, Nat.reduceDiv, Nat.reduceEqDiff,
        Nat.reduceLTLE, Nat.reduceLeDiff, Nat.reduceLT, Nat.reduceGT, Nat.reduceOr,
        Nat.reduceXor, reduceCtorEq, Bool.not_eq_true', Bool.not_eq_true,
        decide_eq_true_eq, decide_eq_false_iff_not, Bool.and_eq_true, Bool.or_eq_true,
        bne_iff_ne, beq_iff_eq, ne_eq, Bool.not_eq_false', Bool.not_eq_false, decide_not,
        not_not, Bool.decide_eq_true, Bool.false_eq_true, Bool.true_eq_false,
        not_false_eq_true, not_true_eq_false, and_true, true_and, and_false, false_and,
        or_true, true_or, or_false, false_or, not_true, not_false_iff, iff_self, true_iff,
        iff_true, false_iff, iff_false, ite_self, decide_eq_decide, decide_False,
        decide_True, Bool.not_true, Bool.not_false]
    all_goals omega
  · set_option maxRecDepth 8000 in
    simp only [
        ↓reduceIte, hF, pow_L4_1_frame, ↓fast_pow.pow_L_2TAG_PACKET_0_0_2_1_sem,
        ↓fast_pow.pow_B1_2_1_sem, ↓fast_pow.pow_start_1_sem, ↓fast_pow.pow_entry_1_sem,
        ↓Machine.get_setx, ↓Machine.get_setg, ↓Machine.get_setstk, ↓Machine.get_enter,
        ↓Machine.get_setFlags, ↓Machine.trace_set, ↓Machine.get_ite, ↓Machine.trace_ite,
        ↓Machine.obs_eq_get, ↓Machine.flags_get, ↓Machine.flags_trace, ↓sem_get_1,
        ↓sem_get_2, ↓sem_get_3, ↓sem_get_4, ↓sem_trace_1, ↓sem_trace_2, ↓sem_trace_3,
        ↓sem_trace_4, ↓load_const, cc_iff, ea, and_imm, and_imm_left, ilog2_lit,
        or_eq_zero, or_mod32, or_lt_2p31, Nat.mod_mod, Nat.zero_or, Nat.or_zero,
        Nat.sub_zero, Nat.add_mod_right, lane_eq, Machine.io_eq_get, Nat.xor_self,
        Loc.x.injEq, Loc.g.injEq, Loc.m.injEq, Bool.toNat_eq_zero, Bool.toNat_eq_one,
        Nat.reducePow, Nat.reduceMul, Nat.reduceMod, Nat.reduceAdd, Nat.reduceSub,
        Nat.reduceDiv, Nat.reduceEqDiff, Nat.reduceLTLE, Nat.reduceLeDiff, Nat.reduceLT,
        Nat.reduceGT, Nat.reduceOr, Nat.reduceXor, reduceCtorEq, Bool.not_eq_true',
        Bool.not_eq_true, decide_eq_true_eq, decide_eq_false_iff_not, Bool.and_eq_true,
        Bool.or_eq_true, bne_iff_ne, beq_iff_eq, ne_eq, Bool.not_eq_false',
        Bool.not_eq_false, decide_not, not_not, Bool.decide_eq_true, Bool.false_eq_true,
        Bool.true_eq_false, not_false_eq_true, not_true_eq_false, and_true, true_and,
        and_false, false_and, or_true, true_or, or_false, false_or, not_true,
        not_false_iff, iff_self, true_iff, iff_true, false_iff, iff_false, ite_self,
        decide_eq_decide, decide_False, decide_True, Bool.not_true, Bool.not_false]
    all_goals omega
  · set_option maxRecDepth 8000 in
    simp only [
        ↓reduceIte, hF, pow_L4_1_frame, ↓fast_pow.pow_B1_2_1_sem,
        ↓fast_pow.pow_start_1_sem, ↓fast_pow.pow_entry_1_sem, ↓Machine.get_setx,
        ↓Machine.get_setg, ↓Machine.get_setstk, ↓Machine.get_enter, ↓Machine.get_setFlags,
        ↓Machine.trace_set, ↓Machine.get_ite, ↓Machine.trace_ite, ↓Machine.obs_eq_get,
        ↓Machine.flags_get, ↓Machine.flags_trace, ↓sem_get_1, ↓sem_get_2, ↓sem_get_3,
        ↓sem_get_4, ↓sem_trace_1, ↓sem_trace_2, ↓sem_trace_3, ↓sem_trace_4, ↓load_const,
        cc_iff, ea, and_imm, and_imm_left, ilog2_lit, or_eq_zero, or_mod32, or_lt_2p31,
        Nat.mod_mod, Nat.zero_or, Nat.or_zero, Nat.sub_zero, Nat.add_mod_right, lane_eq,
        Machine.io_eq_get, Nat.xor_self, Loc.x.injEq, Loc.g.injEq, Loc.m.injEq,
        Bool.toNat_eq_zero, Bool.toNat_eq_one, Nat.reducePow, Nat.reduceMul,
        Nat.reduceMod, Nat.reduceAdd, Nat.reduceSub, Nat.reduceDiv, Nat.reduceEqDiff,
        Nat.reduceLTLE, Nat.reduceLeDiff, Nat.reduceLT, Nat.reduceGT, Nat.reduceOr,
        Nat.reduceXor, reduceCtorEq, Bool.not_eq_true', Bool.not_eq_true,
        decide_eq_true_eq, decide_eq_false_iff_not, Bool.and_eq_true, Bool.or_eq_true,
        bne_iff_ne, beq_iff_eq, ne_eq, Bool.not_eq_false', Bool.not_eq_false, decide_not,
        not_not, Bool.decide_eq_true, Bool.false_eq_true, Bool.true_eq_false,
        not_false_eq_true, not_true_eq_false, and_true, true_and, and_false, false_and,
        or_true, true_or, or_false, false_or, not_true, not_false_iff, iff_self, true_iff,
        iff_true, false_iff, iff_false, ite_self, decide_eq_decide, decide_False,
        decide_True, Bool.not_true, Bool.not_false]
    all_goals omega

set_option maxHeartbeats 1000000 in
/-- A positive normal base away from one does the same. -/
theorem pow_to_L45_normal (cpu : Cpu) (s : Machine)
    (h1 : 16 ≤ s.arg0 / 2 ^ 48) (h2 : s.arg0 / 2 ^ 48 < 32752)
    (h3 : s.arg0 / 2 ^ 48 ≠ 16367) (h4 : s.arg0 / 2 ^ 48 ≠ 16368)
    (hy : s.arg1 / 2 ^ 52 % 2048 = 2047) :
    ∃ t, fast_pow cpu s = fast_pow.L_2TAG_PACKET_45_0_2 cpu t ∧
      t.get (.m 8) = s.arg0 ∧ t.get (.m 16) = s.arg1 := by
  simp only [Machine.io_eq_get, Nat.reducePow] at h1 h2 h3 h4 hy
  have hE := pow_L4_1_eax cpu (fast_pow.L_2TAG_PACKET_3_0_2_1 cpu (fast_pow.L_2TAG_PACKET_1_0_2_2 cpu (fast_pow.L_2TAG_PACKET_1_0_2_1 cpu (fast_pow.B1_2_2 cpu (fast_pow.B1_2_1 cpu (fast_pow.start_1 cpu (fast_pow.entry_1 cpu s)))))))
  have hF := pow_L4_1_flags cpu (fast_pow.L_2TAG_PACKET_3_0_2_1 cpu (fast_pow.L_2TAG_PACKET_1_0_2_2 cpu (fast_pow.L_2TAG_PACKET_1_0_2_1 cpu (fast_pow.B1_2_2 cpu (fast_pow.B1_2_1 cpu (fast_pow.start_1 cpu (fast_pow.entry_1 cpu s)))))))
  set_option maxRecDepth 8000 in
  simp only [
      ↓reduceIte, ↓fast_pow.pow_L_2TAG_PACKET_3_0_2_1_sem,
      ↓fast_pow.pow_L_2TAG_PACKET_1_0_2_2_sem, ↓fast_pow.pow_L_2TAG_PACKET_1_0_2_1_sem,
      ↓fast_pow.pow_B1_2_2_sem, ↓fast_pow.pow_B1_2_1_sem, ↓fast_pow.pow_start_1_sem,
      ↓fast_pow.pow_entry_1_sem, ↓Machine.get_setx, ↓Machine.get_setg, ↓Machine.get_setstk,
      ↓Machine.get_enter, ↓Machine.get_setFlags, ↓Machine.trace_set, ↓Machine.get_ite,
      ↓Machine.trace_ite, ↓Machine.obs_eq_get, ↓Machine.flags_get, ↓Machine.flags_trace,
      ↓sem_get_1, ↓sem_get_2, ↓sem_get_3, ↓sem_get_4, ↓sem_trace_1, ↓sem_trace_2,
      ↓sem_trace_3, ↓sem_trace_4, ↓load_const, cc_iff, ea, and_imm, and_imm_left, ilog2_lit,
      or_eq_zero, or_mod32, or_lt_2p31, Nat.mod_mod, Nat.zero_or, Nat.or_zero, Nat.sub_zero,
      Nat.add_mod_right, lane_eq, Machine.io_eq_get, Nat.xor_self, Loc.x.injEq, Loc.g.injEq,
      Loc.m.injEq, Bool.toNat_eq_zero, Bool.toNat_eq_one, Nat.reducePow, Nat.reduceMul,
      Nat.reduceMod, Nat.reduceAdd, Nat.reduceSub, Nat.reduceDiv, Nat.reduceEqDiff,
      Nat.reduceLTLE, Nat.reduceLeDiff, Nat.reduceLT, Nat.reduceGT, Nat.reduceOr,
      Nat.reduceXor, reduceCtorEq, Bool.not_eq_true', Bool.not_eq_true, decide_eq_true_eq,
      decide_eq_false_iff_not, Bool.and_eq_true, Bool.or_eq_true, bne_iff_ne, beq_iff_eq,
      ne_eq, Bool.not_eq_false', Bool.not_eq_false, decide_not, not_not,
      Bool.decide_eq_true, Bool.false_eq_true, Bool.true_eq_false, not_false_eq_true,
      not_true_eq_false, and_true, true_and, and_false, false_and, or_true, true_or,
      or_false, false_or, not_true, not_false_iff, iff_self, true_iff, iff_true, false_iff,
      iff_false, ite_self, decide_eq_decide, decide_False, decide_True, Bool.not_true,
      Bool.not_false] at hE
  refine ⟨(fast_pow.L_2TAG_PACKET_12_0_2_1 cpu (fast_pow.L_2TAG_PACKET_5_0_2_2 cpu (fast_pow.L_2TAG_PACKET_5_0_2_1 cpu (fast_pow.L_2TAG_PACKET_4_0_2_1 cpu (fast_pow.L_2TAG_PACKET_3_0_2_1 cpu (fast_pow.L_2TAG_PACKET_1_0_2_2 cpu (fast_pow.L_2TAG_PACKET_1_0_2_1 cpu (fast_pow.B1_2_2 cpu (fast_pow.B1_2_1 cpu (fast_pow.start_1 cpu (fast_pow.entry_1 cpu s))))))))))), ?_, ?_, ?_⟩
  rotate_left
  · set_option maxRecDepth 8000 in
    simp only [
        ↓reduceIte, pow_L4_1_frame, ↓fast_pow.pow_L_2TAG_PACKET_12_0_2_1_sem,
        ↓fast_pow.pow_L_2TAG_PACKET_5_0_2_2_sem, ↓fast_pow.pow_L_2TAG_PACKET_5_0_2_1_sem,
        ↓fast_pow.pow_L_2TAG_PACKET_3_0_2_1_sem, ↓fast_pow.pow_L_2TAG_PACKET_1_0_2_2_sem,
        ↓fast_pow.pow_L_2TAG_PACKET_1_0_2_1_sem, ↓fast_pow.pow_B1_2_2_sem,
        ↓fast_pow.pow_B1_2_1_sem, ↓fast_pow.pow_start_1_sem, ↓fast_pow.pow_entry_1_sem,
        ↓Machine.get_setx, ↓Machine.get_setg, ↓Machine.get_setstk, ↓Machine.get_enter,
        ↓Machine.get_setFlags, ↓Machine.trace_set, ↓Machine.get_ite, ↓Machine.trace_ite,
        ↓Machine.obs_eq_get, ↓Machine.flags_get, ↓Machine.flags_trace, ↓sem_get_1,
        ↓sem_get_2, ↓sem_get_3, ↓sem_get_4, ↓sem_trace_1, ↓sem_trace_2, ↓sem_trace_3,
        ↓sem_trace_4, ↓load_const, cc_iff, ea, and_imm, and_imm_left, ilog2_lit,
        or_eq_zero, or_mod32, or_lt_2p31, Nat.mod_mod, Nat.zero_or, Nat.or_zero,
        Nat.sub_zero, Nat.add_mod_right, lane_eq, Machine.io_eq_get, Nat.xor_self,
        Loc.x.injEq, Loc.g.injEq, Loc.m.injEq, Bool.toNat_eq_zero, Bool.toNat_eq_one,
        Nat.reducePow, Nat.reduceMul, Nat.reduceMod, Nat.reduceAdd, Nat.reduceSub,
        Nat.reduceDiv, Nat.reduceEqDiff, Nat.reduceLTLE, Nat.reduceLeDiff, Nat.reduceLT,
        Nat.reduceGT, Nat.reduceOr, Nat.reduceXor, reduceCtorEq, Bool.not_eq_true',
        Bool.not_eq_true, decide_eq_true_eq, decide_eq_false_iff_not, Bool.and_eq_true,
        Bool.or_eq_true, bne_iff_ne, beq_iff_eq, ne_eq, Bool.not_eq_false',
        Bool.not_eq_false, decide_not, not_not, Bool.decide_eq_true, Bool.false_eq_true,
        Bool.true_eq_false, not_false_eq_true, not_true_eq_false, and_true, true_and,
        and_false, false_and, or_true, true_or, or_false, false_or, not_true,
        not_false_iff, iff_self, true_iff, iff_true, false_iff, iff_false, ite_self,
        decide_eq_decide, decide_False, decide_True, Bool.not_true, Bool.not_false]
  · set_option maxRecDepth 8000 in
    simp only [
        ↓reduceIte, pow_L4_1_frame, ↓fast_pow.pow_L_2TAG_PACKET_12_0_2_1_sem,
        ↓fast_pow.pow_L_2TAG_PACKET_5_0_2_2_sem, ↓fast_pow.pow_L_2TAG_PACKET_5_0_2_1_sem,
        ↓fast_pow.pow_L_2TAG_PACKET_3_0_2_1_sem, ↓fast_pow.pow_L_2TAG_PACKET_1_0_2_2_sem,
        ↓fast_pow.pow_L_2TAG_PACKET_1_0_2_1_sem, ↓fast_pow.pow_B1_2_2_sem,
        ↓fast_pow.pow_B1_2_1_sem, ↓fast_pow.pow_start_1_sem, ↓fast_pow.pow_entry_1_sem,
        ↓Machine.get_setx, ↓Machine.get_setg, ↓Machine.get_setstk, ↓Machine.get_enter,
        ↓Machine.get_setFlags, ↓Machine.trace_set, ↓Machine.get_ite, ↓Machine.trace_ite,
        ↓Machine.obs_eq_get, ↓Machine.flags_get, ↓Machine.flags_trace, ↓sem_get_1,
        ↓sem_get_2, ↓sem_get_3, ↓sem_get_4, ↓sem_trace_1, ↓sem_trace_2, ↓sem_trace_3,
        ↓sem_trace_4, ↓load_const, cc_iff, ea, and_imm, and_imm_left, ilog2_lit,
        or_eq_zero, or_mod32, or_lt_2p31, Nat.mod_mod, Nat.zero_or, Nat.or_zero,
        Nat.sub_zero, Nat.add_mod_right, lane_eq, Machine.io_eq_get, Nat.xor_self,
        Loc.x.injEq, Loc.g.injEq, Loc.m.injEq, Bool.toNat_eq_zero, Bool.toNat_eq_one,
        Nat.reducePow, Nat.reduceMul, Nat.reduceMod, Nat.reduceAdd, Nat.reduceSub,
        Nat.reduceDiv, Nat.reduceEqDiff, Nat.reduceLTLE, Nat.reduceLeDiff, Nat.reduceLT,
        Nat.reduceGT, Nat.reduceOr, Nat.reduceXor, reduceCtorEq, Bool.not_eq_true',
        Bool.not_eq_true, decide_eq_true_eq, decide_eq_false_iff_not, Bool.and_eq_true,
        Bool.or_eq_true, bne_iff_ne, beq_iff_eq, ne_eq, Bool.not_eq_false',
        Bool.not_eq_false, decide_not, not_not, Bool.decide_eq_true, Bool.false_eq_true,
        Bool.true_eq_false, not_false_eq_true, not_true_eq_false, and_true, true_and,
        and_false, false_and, or_true, true_or, or_false, false_or, not_true,
        not_false_iff, iff_self, true_iff, iff_true, false_iff, iff_false, ite_self,
        decide_eq_decide, decide_False, decide_True, Bool.not_true, Bool.not_false]
  rw [
      fast_pow, fast_pow.pow_entry_eq, fast_pow.pow_start_eq, fast_pow.pow_B1_2_eq, if_neg,
      fast_pow.pow_L_2TAG_PACKET_1_0_2_eq, if_neg, fast_pow.pow_L_2TAG_PACKET_3_0_2_eq,
      fast_pow.pow_L_2TAG_PACKET_4_0_2_eq, if_pos, fast_pow.pow_L_2TAG_PACKET_5_0_2_eq,
      if_neg, if_pos, fast_pow.pow_L_2TAG_PACKET_12_0_2_eq, if_pos]
  · set_option maxRecDepth 8000 in
    simp only [
        ↓reduceIte, hF, pow_L4_1_frame, ↓fast_pow.pow_L_2TAG_PACKET_12_0_2_1_sem,
        ↓fast_pow.pow_L_2TAG_PACKET_5_0_2_2_sem, ↓fast_pow.pow_L_2TAG_PACKET_5_0_2_1_sem,
        ↓fast_pow.pow_L_2TAG_PACKET_3_0_2_1_sem, ↓fast_pow.pow_L_2TAG_PACKET_1_0_2_2_sem,
        ↓fast_pow.pow_L_2TAG_PACKET_1_0_2_1_sem, ↓fast_pow.pow_B1_2_2_sem,
        ↓fast_pow.pow_B1_2_1_sem, ↓fast_pow.pow_start_1_sem, ↓fast_pow.pow_entry_1_sem,
        ↓Machine.get_setx, ↓Machine.get_setg, ↓Machine.get_setstk, ↓Machine.get_enter,
        ↓Machine.get_setFlags, ↓Machine.trace_set, ↓Machine.get_ite, ↓Machine.trace_ite,
        ↓Machine.obs_eq_get, ↓Machine.flags_get, ↓Machine.flags_trace, ↓sem_get_1,
        ↓sem_get_2, ↓sem_get_3, ↓sem_get_4, ↓sem_trace_1, ↓sem_trace_2, ↓sem_trace_3,
        ↓sem_trace_4, ↓load_const, cc_iff, ea, and_imm, and_imm_left, ilog2_lit,
        or_eq_zero, or_mod32, or_lt_2p31, Nat.mod_mod, Nat.zero_or, Nat.or_zero,
        Nat.sub_zero, Nat.add_mod_right, lane_eq, Machine.io_eq_get, Nat.xor_self,
        Loc.x.injEq, Loc.g.injEq, Loc.m.injEq, Bool.toNat_eq_zero, Bool.toNat_eq_one,
        Nat.reducePow, Nat.reduceMul, Nat.reduceMod, Nat.reduceAdd, Nat.reduceSub,
        Nat.reduceDiv, Nat.reduceEqDiff, Nat.reduceLTLE, Nat.reduceLeDiff, Nat.reduceLT,
        Nat.reduceGT, Nat.reduceOr, Nat.reduceXor, reduceCtorEq, Bool.not_eq_true',
        Bool.not_eq_true, decide_eq_true_eq, decide_eq_false_iff_not, Bool.and_eq_true,
        Bool.or_eq_true, bne_iff_ne, beq_iff_eq, ne_eq, Bool.not_eq_false',
        Bool.not_eq_false, decide_not, not_not, Bool.decide_eq_true, Bool.false_eq_true,
        Bool.true_eq_false, not_false_eq_true, not_true_eq_false, and_true, true_and,
        and_false, false_and, or_true, true_or, or_false, false_or, not_true,
        not_false_iff, iff_self, true_iff, iff_true, false_iff, iff_false, ite_self,
        decide_eq_decide, decide_False, decide_True, Bool.not_true, Bool.not_false]
    all_goals omega
  · set_option maxRecDepth 8000 in
    simp only [
        ↓reduceIte, hF, pow_L4_1_frame, ↓fast_pow.pow_L_2TAG_PACKET_5_0_2_2_sem,
        ↓fast_pow.pow_L_2TAG_PACKET_5_0_2_1_sem, ↓fast_pow.pow_L_2TAG_PACKET_3_0_2_1_sem,
        ↓fast_pow.pow_L_2TAG_PACKET_1_0_2_2_sem, ↓fast_pow.pow_L_2TAG_PACKET_1_0_2_1_sem,
        ↓fast_pow.pow_B1_2_2_sem, ↓fast_pow.pow_B1_2_1_sem, ↓fast_pow.pow_start_1_sem,
        ↓fast_pow.pow_entry_1_sem, ↓Machine.get_setx, ↓Machine.get_setg,
        ↓Machine.get_setstk, ↓Machine.get_enter, ↓Machine.get_setFlags,
        ↓Machine.trace_set, ↓Machine.get_ite, ↓Machine.trace_ite, ↓Machine.obs_eq_get,
        ↓Machine.flags_get, ↓Machine.flags_trace, ↓sem_get_1, ↓sem_get_2, ↓sem_get_3,
        ↓sem_get_4, ↓sem_trace_1, ↓sem_trace_2, ↓sem_trace_3, ↓sem_trace_4, ↓load_const,
        cc_iff, ea, and_imm, and_imm_left, ilog2_lit, or_eq_zero, or_mod32, or_lt_2p31,
        Nat.mod_mod, Nat.zero_or, Nat.or_zero, Nat.sub_zero, Nat.add_mod_right, lane_eq,
        Machine.io_eq_get, Nat.xor_self, Loc.x.injEq, Loc.g.injEq, Loc.m.injEq,
        Bool.toNat_eq_zero, Bool.toNat_eq_one, Nat.reducePow, Nat.reduceMul,
        Nat.reduceMod, Nat.reduceAdd, Nat.reduceSub, Nat.reduceDiv, Nat.reduceEqDiff,
        Nat.reduceLTLE, Nat.reduceLeDiff, Nat.reduceLT, Nat.reduceGT, Nat.reduceOr,
        Nat.reduceXor, reduceCtorEq, Bool.not_eq_true', Bool.not_eq_true,
        decide_eq_true_eq, decide_eq_false_iff_not, Bool.and_eq_true, Bool.or_eq_true,
        bne_iff_ne, beq_iff_eq, ne_eq, Bool.not_eq_false', Bool.not_eq_false, decide_not,
        not_not, Bool.decide_eq_true, Bool.false_eq_true, Bool.true_eq_false,
        not_false_eq_true, not_true_eq_false, and_true, true_and, and_false, false_and,
        or_true, true_or, or_false, false_or, not_true, not_false_iff, iff_self, true_iff,
        iff_true, false_iff, iff_false, ite_self, decide_eq_decide, decide_False,
        decide_True, Bool.not_true, Bool.not_false]
    all_goals omega
  · set_option maxRecDepth 8000 in
    simp only [
        ↓reduceIte, hF, pow_L4_1_frame, ↓fast_pow.pow_L_2TAG_PACKET_5_0_2_1_sem,
        ↓fast_pow.pow_L_2TAG_PACKET_3_0_2_1_sem, ↓fast_pow.pow_L_2TAG_PACKET_1_0_2_2_sem,
        ↓fast_pow.pow_L_2TAG_PACKET_1_0_2_1_sem, ↓fast_pow.pow_B1_2_2_sem,
        ↓fast_pow.pow_B1_2_1_sem, ↓fast_pow.pow_start_1_sem, ↓fast_pow.pow_entry_1_sem,
        ↓Machine.get_setx, ↓Machine.get_setg, ↓Machine.get_setstk, ↓Machine.get_enter,
        ↓Machine.get_setFlags, ↓Machine.trace_set, ↓Machine.get_ite, ↓Machine.trace_ite,
        ↓Machine.obs_eq_get, ↓Machine.flags_get, ↓Machine.flags_trace, ↓sem_get_1,
        ↓sem_get_2, ↓sem_get_3, ↓sem_get_4, ↓sem_trace_1, ↓sem_trace_2, ↓sem_trace_3,
        ↓sem_trace_4, ↓load_const, cc_iff, ea, and_imm, and_imm_left, ilog2_lit,
        or_eq_zero, or_mod32, or_lt_2p31, Nat.mod_mod, Nat.zero_or, Nat.or_zero,
        Nat.sub_zero, Nat.add_mod_right, lane_eq, Machine.io_eq_get, Nat.xor_self,
        Loc.x.injEq, Loc.g.injEq, Loc.m.injEq, Bool.toNat_eq_zero, Bool.toNat_eq_one,
        Nat.reducePow, Nat.reduceMul, Nat.reduceMod, Nat.reduceAdd, Nat.reduceSub,
        Nat.reduceDiv, Nat.reduceEqDiff, Nat.reduceLTLE, Nat.reduceLeDiff, Nat.reduceLT,
        Nat.reduceGT, Nat.reduceOr, Nat.reduceXor, reduceCtorEq, Bool.not_eq_true',
        Bool.not_eq_true, decide_eq_true_eq, decide_eq_false_iff_not, Bool.and_eq_true,
        Bool.or_eq_true, bne_iff_ne, beq_iff_eq, ne_eq, Bool.not_eq_false',
        Bool.not_eq_false, decide_not, not_not, Bool.decide_eq_true, Bool.false_eq_true,
        Bool.true_eq_false, not_false_eq_true, not_true_eq_false, and_true, true_and,
        and_false, false_and, or_true, true_or, or_false, false_or, not_true,
        not_false_iff, iff_self, true_iff, iff_true, false_iff, iff_false, ite_self,
        decide_eq_decide, decide_False, decide_True, Bool.not_true, Bool.not_false]
    all_goals omega
  · set_option maxRecDepth 8000 in
    simp only [
        ↓reduceIte, hF, pow_L4_1_frame, ↓fast_pow.pow_L_2TAG_PACKET_3_0_2_1_sem,
        ↓fast_pow.pow_L_2TAG_PACKET_1_0_2_2_sem, ↓fast_pow.pow_L_2TAG_PACKET_1_0_2_1_sem,
        ↓fast_pow.pow_B1_2_2_sem, ↓fast_pow.pow_B1_2_1_sem, ↓fast_pow.pow_start_1_sem,
        ↓fast_pow.pow_entry_1_sem, ↓Machine.get_setx, ↓Machine.get_setg,
        ↓Machine.get_setstk, ↓Machine.get_enter, ↓Machine.get_setFlags,
        ↓Machine.trace_set, ↓Machine.get_ite, ↓Machine.trace_ite, ↓Machine.obs_eq_get,
        ↓Machine.flags_get, ↓Machine.flags_trace, ↓sem_get_1, ↓sem_get_2, ↓sem_get_3,
        ↓sem_get_4, ↓sem_trace_1, ↓sem_trace_2, ↓sem_trace_3, ↓sem_trace_4, ↓load_const,
        cc_iff, ea, and_imm, and_imm_left, ilog2_lit, or_eq_zero, or_mod32, or_lt_2p31,
        Nat.mod_mod, Nat.zero_or, Nat.or_zero, Nat.sub_zero, Nat.add_mod_right, lane_eq,
        Machine.io_eq_get, Nat.xor_self, Loc.x.injEq, Loc.g.injEq, Loc.m.injEq,
        Bool.toNat_eq_zero, Bool.toNat_eq_one, Nat.reducePow, Nat.reduceMul,
        Nat.reduceMod, Nat.reduceAdd, Nat.reduceSub, Nat.reduceDiv, Nat.reduceEqDiff,
        Nat.reduceLTLE, Nat.reduceLeDiff, Nat.reduceLT, Nat.reduceGT, Nat.reduceOr,
        Nat.reduceXor, reduceCtorEq, Bool.not_eq_true', Bool.not_eq_true,
        decide_eq_true_eq, decide_eq_false_iff_not, Bool.and_eq_true, Bool.or_eq_true,
        bne_iff_ne, beq_iff_eq, ne_eq, Bool.not_eq_false', Bool.not_eq_false, decide_not,
        not_not, Bool.decide_eq_true, Bool.false_eq_true, Bool.true_eq_false,
        not_false_eq_true, not_true_eq_false, and_true, true_and, and_false, false_and,
        or_true, true_or, or_false, false_or, not_true, not_false_iff, iff_self, true_iff,
        iff_true, false_iff, iff_false, ite_self, decide_eq_decide, decide_False,
        decide_True, Bool.not_true, Bool.not_false]
    all_goals omega
  · set_option maxRecDepth 8000 in
    simp only [
        ↓reduceIte, hF, pow_L4_1_frame, ↓fast_pow.pow_L_2TAG_PACKET_1_0_2_1_sem,
        ↓fast_pow.pow_B1_2_2_sem, ↓fast_pow.pow_B1_2_1_sem, ↓fast_pow.pow_start_1_sem,
        ↓fast_pow.pow_entry_1_sem, ↓Machine.get_setx, ↓Machine.get_setg,
        ↓Machine.get_setstk, ↓Machine.get_enter, ↓Machine.get_setFlags,
        ↓Machine.trace_set, ↓Machine.get_ite, ↓Machine.trace_ite, ↓Machine.obs_eq_get,
        ↓Machine.flags_get, ↓Machine.flags_trace, ↓sem_get_1, ↓sem_get_2, ↓sem_get_3,
        ↓sem_get_4, ↓sem_trace_1, ↓sem_trace_2, ↓sem_trace_3, ↓sem_trace_4, ↓load_const,
        cc_iff, ea, and_imm, and_imm_left, ilog2_lit, or_eq_zero, or_mod32, or_lt_2p31,
        Nat.mod_mod, Nat.zero_or, Nat.or_zero, Nat.sub_zero, Nat.add_mod_right, lane_eq,
        Machine.io_eq_get, Nat.xor_self, Loc.x.injEq, Loc.g.injEq, Loc.m.injEq,
        Bool.toNat_eq_zero, Bool.toNat_eq_one, Nat.reducePow, Nat.reduceMul,
        Nat.reduceMod, Nat.reduceAdd, Nat.reduceSub, Nat.reduceDiv, Nat.reduceEqDiff,
        Nat.reduceLTLE, Nat.reduceLeDiff, Nat.reduceLT, Nat.reduceGT, Nat.reduceOr,
        Nat.reduceXor, reduceCtorEq, Bool.not_eq_true', Bool.not_eq_true,
        decide_eq_true_eq, decide_eq_false_iff_not, Bool.and_eq_true, Bool.or_eq_true,
        bne_iff_ne, beq_iff_eq, ne_eq, Bool.not_eq_false', Bool.not_eq_false, decide_not,
        not_not, Bool.decide_eq_true, Bool.false_eq_true, Bool.true_eq_false,
        not_false_eq_true, not_true_eq_false, and_true, true_and, and_false, false_and,
        or_true, true_or, or_false, false_or, not_true, not_false_iff, iff_self, true_iff,
        iff_true, false_iff, iff_false, ite_self, decide_eq_decide, decide_False,
        decide_True, Bool.not_true, Bool.not_false]
    all_goals omega
  · set_option maxRecDepth 8000 in
    simp only [
        ↓reduceIte, hF, pow_L4_1_frame, ↓fast_pow.pow_B1_2_1_sem,
        ↓fast_pow.pow_start_1_sem, ↓fast_pow.pow_entry_1_sem, ↓Machine.get_setx,
        ↓Machine.get_setg, ↓Machine.get_setstk, ↓Machine.get_enter, ↓Machine.get_setFlags,
        ↓Machine.trace_set, ↓Machine.get_ite, ↓Machine.trace_ite, ↓Machine.obs_eq_get,
        ↓Machine.flags_get, ↓Machine.flags_trace, ↓sem_get_1, ↓sem_get_2, ↓sem_get_3,
        ↓sem_get_4, ↓sem_trace_1, ↓sem_trace_2, ↓sem_trace_3, ↓sem_trace_4, ↓load_const,
        cc_iff, ea, and_imm, and_imm_left, ilog2_lit, or_eq_zero, or_mod32, or_lt_2p31,
        Nat.mod_mod, Nat.zero_or, Nat.or_zero, Nat.sub_zero, Nat.add_mod_right, lane_eq,
        Machine.io_eq_get, Nat.xor_self, Loc.x.injEq, Loc.g.injEq, Loc.m.injEq,
        Bool.toNat_eq_zero, Bool.toNat_eq_one, Nat.reducePow, Nat.reduceMul,
        Nat.reduceMod, Nat.reduceAdd, Nat.reduceSub, Nat.reduceDiv, Nat.reduceEqDiff,
        Nat.reduceLTLE, Nat.reduceLeDiff, Nat.reduceLT, Nat.reduceGT, Nat.reduceOr,
        Nat.reduceXor, reduceCtorEq, Bool.not_eq_true', Bool.not_eq_true,
        decide_eq_true_eq, decide_eq_false_iff_not, Bool.and_eq_true, Bool.or_eq_true,
        bne_iff_ne, beq_iff_eq, ne_eq, Bool.not_eq_false', Bool.not_eq_false, decide_not,
        not_not, Bool.decide_eq_true, Bool.false_eq_true, Bool.true_eq_false,
        not_false_eq_true, not_true_eq_false, and_true, true_and, and_false, false_and,
        or_true, true_or, or_false, false_or, not_true, not_false_iff, iff_self, true_iff,
        iff_true, false_iff, iff_false, ite_self, decide_eq_decide, decide_False,
        decide_True, Bool.not_true, Bool.not_false]
    all_goals omega

set_option maxHeartbeats 1000000 in
/-- A base next to one does the same, through `L_2TAG_PACKET_2_0_2`. -/
theorem pow_to_L45_near_one (cpu : Cpu) (s : Machine)
    (h3 : s.arg0 / 2 ^ 48 = 16367 ∨ s.arg0 / 2 ^ 48 = 16368)
    (hy : s.arg1 / 2 ^ 52 % 2048 = 2047) :
    ∃ t, fast_pow cpu s = fast_pow.L_2TAG_PACKET_45_0_2 cpu t ∧
      t.get (.m 8) = s.arg0 ∧ t.get (.m 16) = s.arg1 := by
  simp only [Machine.io_eq_get, Nat.reducePow] at h3 hy
  refine ⟨(fast_pow.L_2TAG_PACKET_2_0_2_2 cpu (fast_pow.L_2TAG_PACKET_2_0_2_1 cpu (fast_pow.L_2TAG_PACKET_1_0_2_1 cpu (fast_pow.B1_2_2 cpu (fast_pow.B1_2_1 cpu (fast_pow.start_1 cpu (fast_pow.entry_1 cpu s))))))), ?_, ?_, ?_⟩
  rotate_left
  · set_option maxRecDepth 8000 in
    simp only [
        ↓reduceIte, ↓fast_pow.pow_L_2TAG_PACKET_2_0_2_2_sem,
        ↓fast_pow.pow_L_2TAG_PACKET_2_0_2_1_sem, ↓fast_pow.pow_L_2TAG_PACKET_1_0_2_1_sem,
        ↓fast_pow.pow_B1_2_2_sem, ↓fast_pow.pow_B1_2_1_sem, ↓fast_pow.pow_start_1_sem,
        ↓fast_pow.pow_entry_1_sem, ↓Machine.get_setx, ↓Machine.get_setg,
        ↓Machine.get_setstk, ↓Machine.get_enter, ↓Machine.get_setFlags,
        ↓Machine.trace_set, ↓Machine.get_ite, ↓Machine.trace_ite, ↓Machine.obs_eq_get,
        ↓Machine.flags_get, ↓Machine.flags_trace, ↓sem_get_1, ↓sem_get_2, ↓sem_get_3,
        ↓sem_get_4, ↓sem_trace_1, ↓sem_trace_2, ↓sem_trace_3, ↓sem_trace_4, ↓load_const,
        cc_iff, ea, and_imm, and_imm_left, ilog2_lit, or_eq_zero, or_mod32, or_lt_2p31,
        Nat.mod_mod, Nat.zero_or, Nat.or_zero, Nat.sub_zero, Nat.add_mod_right, lane_eq,
        Machine.io_eq_get, Nat.xor_self, Loc.x.injEq, Loc.g.injEq, Loc.m.injEq,
        Bool.toNat_eq_zero, Bool.toNat_eq_one, Nat.reducePow, Nat.reduceMul,
        Nat.reduceMod, Nat.reduceAdd, Nat.reduceSub, Nat.reduceDiv, Nat.reduceEqDiff,
        Nat.reduceLTLE, Nat.reduceLeDiff, Nat.reduceLT, Nat.reduceGT, Nat.reduceOr,
        Nat.reduceXor, reduceCtorEq, Bool.not_eq_true', Bool.not_eq_true,
        decide_eq_true_eq, decide_eq_false_iff_not, Bool.and_eq_true, Bool.or_eq_true,
        bne_iff_ne, beq_iff_eq, ne_eq, Bool.not_eq_false', Bool.not_eq_false, decide_not,
        not_not, Bool.decide_eq_true, Bool.false_eq_true, Bool.true_eq_false,
        not_false_eq_true, not_true_eq_false, and_true, true_and, and_false, false_and,
        or_true, true_or, or_false, false_or, not_true, not_false_iff, iff_self, true_iff,
        iff_true, false_iff, iff_false, ite_self, decide_eq_decide, decide_False,
        decide_True, Bool.not_true, Bool.not_false]
  · set_option maxRecDepth 8000 in
    simp only [
        ↓reduceIte, ↓fast_pow.pow_L_2TAG_PACKET_2_0_2_2_sem,
        ↓fast_pow.pow_L_2TAG_PACKET_2_0_2_1_sem, ↓fast_pow.pow_L_2TAG_PACKET_1_0_2_1_sem,
        ↓fast_pow.pow_B1_2_2_sem, ↓fast_pow.pow_B1_2_1_sem, ↓fast_pow.pow_start_1_sem,
        ↓fast_pow.pow_entry_1_sem, ↓Machine.get_setx, ↓Machine.get_setg,
        ↓Machine.get_setstk, ↓Machine.get_enter, ↓Machine.get_setFlags,
        ↓Machine.trace_set, ↓Machine.get_ite, ↓Machine.trace_ite, ↓Machine.obs_eq_get,
        ↓Machine.flags_get, ↓Machine.flags_trace, ↓sem_get_1, ↓sem_get_2, ↓sem_get_3,
        ↓sem_get_4, ↓sem_trace_1, ↓sem_trace_2, ↓sem_trace_3, ↓sem_trace_4, ↓load_const,
        cc_iff, ea, and_imm, and_imm_left, ilog2_lit, or_eq_zero, or_mod32, or_lt_2p31,
        Nat.mod_mod, Nat.zero_or, Nat.or_zero, Nat.sub_zero, Nat.add_mod_right, lane_eq,
        Machine.io_eq_get, Nat.xor_self, Loc.x.injEq, Loc.g.injEq, Loc.m.injEq,
        Bool.toNat_eq_zero, Bool.toNat_eq_one, Nat.reducePow, Nat.reduceMul,
        Nat.reduceMod, Nat.reduceAdd, Nat.reduceSub, Nat.reduceDiv, Nat.reduceEqDiff,
        Nat.reduceLTLE, Nat.reduceLeDiff, Nat.reduceLT, Nat.reduceGT, Nat.reduceOr,
        Nat.reduceXor, reduceCtorEq, Bool.not_eq_true', Bool.not_eq_true,
        decide_eq_true_eq, decide_eq_false_iff_not, Bool.and_eq_true, Bool.or_eq_true,
        bne_iff_ne, beq_iff_eq, ne_eq, Bool.not_eq_false', Bool.not_eq_false, decide_not,
        not_not, Bool.decide_eq_true, Bool.false_eq_true, Bool.true_eq_false,
        not_false_eq_true, not_true_eq_false, and_true, true_and, and_false, false_and,
        or_true, true_or, or_false, false_or, not_true, not_false_iff, iff_self, true_iff,
        iff_true, false_iff, iff_false, ite_self, decide_eq_decide, decide_False,
        decide_True, Bool.not_true, Bool.not_false]
  rw [
      fast_pow, fast_pow.pow_entry_eq, fast_pow.pow_start_eq, fast_pow.pow_B1_2_eq, if_neg,
      fast_pow.pow_L_2TAG_PACKET_1_0_2_eq, if_pos, fast_pow.pow_L_2TAG_PACKET_2_0_2_eq,
      if_neg, if_pos]
  · set_option maxRecDepth 8000 in
    simp only [
        ↓reduceIte, ↓fast_pow.pow_L_2TAG_PACKET_2_0_2_2_sem,
        ↓fast_pow.pow_L_2TAG_PACKET_2_0_2_1_sem, ↓fast_pow.pow_L_2TAG_PACKET_1_0_2_1_sem,
        ↓fast_pow.pow_B1_2_2_sem, ↓fast_pow.pow_B1_2_1_sem, ↓fast_pow.pow_start_1_sem,
        ↓fast_pow.pow_entry_1_sem, ↓Machine.get_setx, ↓Machine.get_setg,
        ↓Machine.get_setstk, ↓Machine.get_enter, ↓Machine.get_setFlags,
        ↓Machine.trace_set, ↓Machine.get_ite, ↓Machine.trace_ite, ↓Machine.obs_eq_get,
        ↓Machine.flags_get, ↓Machine.flags_trace, ↓sem_get_1, ↓sem_get_2, ↓sem_get_3,
        ↓sem_get_4, ↓sem_trace_1, ↓sem_trace_2, ↓sem_trace_3, ↓sem_trace_4, ↓load_const,
        cc_iff, ea, and_imm, and_imm_left, ilog2_lit, or_eq_zero, or_mod32, or_lt_2p31,
        Nat.mod_mod, Nat.zero_or, Nat.or_zero, Nat.sub_zero, Nat.add_mod_right, lane_eq,
        Machine.io_eq_get, Nat.xor_self, Loc.x.injEq, Loc.g.injEq, Loc.m.injEq,
        Bool.toNat_eq_zero, Bool.toNat_eq_one, Nat.reducePow, Nat.reduceMul,
        Nat.reduceMod, Nat.reduceAdd, Nat.reduceSub, Nat.reduceDiv, Nat.reduceEqDiff,
        Nat.reduceLTLE, Nat.reduceLeDiff, Nat.reduceLT, Nat.reduceGT, Nat.reduceOr,
        Nat.reduceXor, reduceCtorEq, Bool.not_eq_true', Bool.not_eq_true,
        decide_eq_true_eq, decide_eq_false_iff_not, Bool.and_eq_true, Bool.or_eq_true,
        bne_iff_ne, beq_iff_eq, ne_eq, Bool.not_eq_false', Bool.not_eq_false, decide_not,
        not_not, Bool.decide_eq_true, Bool.false_eq_true, Bool.true_eq_false,
        not_false_eq_true, not_true_eq_false, and_true, true_and, and_false, false_and,
        or_true, true_or, or_false, false_or, not_true, not_false_iff, iff_self, true_iff,
        iff_true, false_iff, iff_false, ite_self, decide_eq_decide, decide_False,
        decide_True, Bool.not_true, Bool.not_false]
    all_goals omega
  · set_option maxRecDepth 8000 in
    simp only [
        ↓reduceIte, ↓fast_pow.pow_L_2TAG_PACKET_2_0_2_1_sem,
        ↓fast_pow.pow_L_2TAG_PACKET_1_0_2_1_sem, ↓fast_pow.pow_B1_2_2_sem,
        ↓fast_pow.pow_B1_2_1_sem, ↓fast_pow.pow_start_1_sem, ↓fast_pow.pow_entry_1_sem,
        ↓Machine.get_setx, ↓Machine.get_setg, ↓Machine.get_setstk, ↓Machine.get_enter,
        ↓Machine.get_setFlags, ↓Machine.trace_set, ↓Machine.get_ite, ↓Machine.trace_ite,
        ↓Machine.obs_eq_get, ↓Machine.flags_get, ↓Machine.flags_trace, ↓sem_get_1,
        ↓sem_get_2, ↓sem_get_3, ↓sem_get_4, ↓sem_trace_1, ↓sem_trace_2, ↓sem_trace_3,
        ↓sem_trace_4, ↓load_const, cc_iff, ea, and_imm, and_imm_left, ilog2_lit,
        or_eq_zero, or_mod32, or_lt_2p31, Nat.mod_mod, Nat.zero_or, Nat.or_zero,
        Nat.sub_zero, Nat.add_mod_right, lane_eq, Machine.io_eq_get, Nat.xor_self,
        Loc.x.injEq, Loc.g.injEq, Loc.m.injEq, Bool.toNat_eq_zero, Bool.toNat_eq_one,
        Nat.reducePow, Nat.reduceMul, Nat.reduceMod, Nat.reduceAdd, Nat.reduceSub,
        Nat.reduceDiv, Nat.reduceEqDiff, Nat.reduceLTLE, Nat.reduceLeDiff, Nat.reduceLT,
        Nat.reduceGT, Nat.reduceOr, Nat.reduceXor, reduceCtorEq, Bool.not_eq_true',
        Bool.not_eq_true, decide_eq_true_eq, decide_eq_false_iff_not, Bool.and_eq_true,
        Bool.or_eq_true, bne_iff_ne, beq_iff_eq, ne_eq, Bool.not_eq_false',
        Bool.not_eq_false, decide_not, not_not, Bool.decide_eq_true, Bool.false_eq_true,
        Bool.true_eq_false, not_false_eq_true, not_true_eq_false, and_true, true_and,
        and_false, false_and, or_true, true_or, or_false, false_or, not_true,
        not_false_iff, iff_self, true_iff, iff_true, false_iff, iff_false, ite_self,
        decide_eq_decide, decide_False, decide_True, Bool.not_true, Bool.not_false]
    all_goals omega
  · set_option maxRecDepth 8000 in
    simp only [
        ↓reduceIte, ↓fast_pow.pow_L_2TAG_PACKET_1_0_2_1_sem, ↓fast_pow.pow_B1_2_2_sem,
        ↓fast_pow.pow_B1_2_1_sem, ↓fast_pow.pow_start_1_sem, ↓fast_pow.pow_entry_1_sem,
        ↓Machine.get_setx, ↓Machine.get_setg, ↓Machine.get_setstk, ↓Machine.get_enter,
        ↓Machine.get_setFlags, ↓Machine.trace_set, ↓Machine.get_ite, ↓Machine.trace_ite,
        ↓Machine.obs_eq_get, ↓Machine.flags_get, ↓Machine.flags_trace, ↓sem_get_1,
        ↓sem_get_2, ↓sem_get_3, ↓sem_get_4, ↓sem_trace_1, ↓sem_trace_2, ↓sem_trace_3,
        ↓sem_trace_4, ↓load_const, cc_iff, ea, and_imm, and_imm_left, ilog2_lit,
        or_eq_zero, or_mod32, or_lt_2p31, Nat.mod_mod, Nat.zero_or, Nat.or_zero,
        Nat.sub_zero, Nat.add_mod_right, lane_eq, Machine.io_eq_get, Nat.xor_self,
        Loc.x.injEq, Loc.g.injEq, Loc.m.injEq, Bool.toNat_eq_zero, Bool.toNat_eq_one,
        Nat.reducePow, Nat.reduceMul, Nat.reduceMod, Nat.reduceAdd, Nat.reduceSub,
        Nat.reduceDiv, Nat.reduceEqDiff, Nat.reduceLTLE, Nat.reduceLeDiff, Nat.reduceLT,
        Nat.reduceGT, Nat.reduceOr, Nat.reduceXor, reduceCtorEq, Bool.not_eq_true',
        Bool.not_eq_true, decide_eq_true_eq, decide_eq_false_iff_not, Bool.and_eq_true,
        Bool.or_eq_true, bne_iff_ne, beq_iff_eq, ne_eq, Bool.not_eq_false',
        Bool.not_eq_false, decide_not, not_not, Bool.decide_eq_true, Bool.false_eq_true,
        Bool.true_eq_false, not_false_eq_true, not_true_eq_false, and_true, true_and,
        and_false, false_and, or_true, true_or, or_false, false_or, not_true,
        not_false_iff, iff_self, true_iff, iff_true, false_iff, iff_false, ite_self,
        decide_eq_decide, decide_False, decide_True, Bool.not_true, Bool.not_false]
    all_goals omega
  · set_option maxRecDepth 8000 in
    simp only [
        ↓reduceIte, ↓fast_pow.pow_B1_2_1_sem, ↓fast_pow.pow_start_1_sem,
        ↓fast_pow.pow_entry_1_sem, ↓Machine.get_setx, ↓Machine.get_setg,
        ↓Machine.get_setstk, ↓Machine.get_enter, ↓Machine.get_setFlags,
        ↓Machine.trace_set, ↓Machine.get_ite, ↓Machine.trace_ite, ↓Machine.obs_eq_get,
        ↓Machine.flags_get, ↓Machine.flags_trace, ↓sem_get_1, ↓sem_get_2, ↓sem_get_3,
        ↓sem_get_4, ↓sem_trace_1, ↓sem_trace_2, ↓sem_trace_3, ↓sem_trace_4, ↓load_const,
        cc_iff, ea, and_imm, and_imm_left, ilog2_lit, or_eq_zero, or_mod32, or_lt_2p31,
        Nat.mod_mod, Nat.zero_or, Nat.or_zero, Nat.sub_zero, Nat.add_mod_right, lane_eq,
        Machine.io_eq_get, Nat.xor_self, Loc.x.injEq, Loc.g.injEq, Loc.m.injEq,
        Bool.toNat_eq_zero, Bool.toNat_eq_one, Nat.reducePow, Nat.reduceMul,
        Nat.reduceMod, Nat.reduceAdd, Nat.reduceSub, Nat.reduceDiv, Nat.reduceEqDiff,
        Nat.reduceLTLE, Nat.reduceLeDiff, Nat.reduceLT, Nat.reduceGT, Nat.reduceOr,
        Nat.reduceXor, reduceCtorEq, Bool.not_eq_true', Bool.not_eq_true,
        decide_eq_true_eq, decide_eq_false_iff_not, Bool.and_eq_true, Bool.or_eq_true,
        bne_iff_ne, beq_iff_eq, ne_eq, Bool.not_eq_false', Bool.not_eq_false, decide_not,
        not_not, Bool.decide_eq_true, Bool.false_eq_true, Bool.true_eq_false,
        not_false_eq_true, not_true_eq_false, and_true, true_and, and_false, false_and,
        or_true, true_or, or_false, false_or, not_true, not_false_iff, iff_self, true_iff,
        iff_true, false_iff, iff_false, ite_self, decide_eq_decide, decide_False,
        decide_True, Bool.not_true, Bool.not_false]
    all_goals omega

end MacroAssembler

namespace MacroAssembler

/-! ### Bit fifteen of an exclusive or -/

theorem xor_bit15 (a b : Nat) :
    (a ^^^ b) % 4294967296 / 32768 % 2 = (a / 32768 % 2 + b / 32768 % 2) % 2 := by
  have e : (a ^^^ b) % 4294967296 / 32768 % 2 = (a ^^^ b) / 2 ^ 15 % 2 := by
    simp only [Nat.reducePow]
    omega
  have ea : a / 32768 % 2 = a / 2 ^ 15 % 2 := rfl
  have eb : b / 32768 % 2 = b / 2 ^ 15 % 2 := rfl
  rw [e, ea, eb, ← Nat.toNat_testBit, ← Nat.toNat_testBit a, ← Nat.toNat_testBit b,
    Nat.testBit_xor]
  cases a.testBit 15 <;> cases b.testBit 15 <;> rfl

/-! ### Low bits of a conjunction -/

theorem and_mod_pow (a b n : Nat) : (a &&& b) % 2 ^ n = a % 2 ^ n &&& b % 2 ^ n := by
  apply Nat.eq_of_testBit_eq
  intro i
  simp only [Nat.testBit_mod_two_pow, Nat.testBit_and]
  cases decide (i < n) <;> simp

/-! ### Lanes of a packed register -/

theorem mkdw_one (a b c d : Nat) :
    (a + 4294967296 * b + 18446744073709551616 * c + 79228162514264337593543950336 * d)
      % 4294967296 = a % 4294967296 := by omega

theorem mkdw_dw0 (a b c d : Nat) :
    (a + 4294967296 * b + 18446744073709551616 * c + 79228162514264337593543950336 * d) / 1
      % 4294967296 = a % 4294967296 := by omega

theorem mk128_dw0 (a b : Nat) :
    (a + 18446744073709551616 * b) / 1 % 4294967296 = a % 4294967296 := by omega

theorem mkdw_dw1 (a b c d : Nat) :
    (a + 4294967296 * b + 18446744073709551616 * c + 79228162514264337593543950336 * d)
      / 4294967296 % 4294967296 = (a / 4294967296 + b) % 4294967296 := by omega

theorem mk128_dw1 (a b : Nat) :
    (a + 18446744073709551616 * b) / 4294967296 % 4294967296 =
      a / 4294967296 % 4294967296 := by omega

theorem mkqw_dw0 (a c d : Nat) :
    (a + 18446744073709551616 * c + 79228162514264337593543950336 * d) / 1
      % 4294967296 = a % 4294967296 := by omega

theorem mkqw_dw1 (a c d : Nat) :
    (a + 18446744073709551616 * c + 79228162514264337593543950336 * d)
      / 4294967296 % 4294967296 = a / 4294967296 % 4294967296 := by omega

theorem mk128_one (a b : Nat) :
    (a + 18446744073709551616 * b) % 4294967296 = a % 4294967296 := by omega

theorem mod_div4_mod (a : Nat) :
    a % 4294967296 / 4 % 4294967296 = a % 4294967296 / 4 := by omega

/-! ### Bounds on rounded results -/

theorem roundPack_ge (s sig e : Nat) : s * 2 ^ 63 ≤ roundPack s sig e := by
  unfold roundPack roundPackG
  simp only [Nat.reduceAdd]
  split_ifs <;> omega

theorem roundPack_le (s sig e : Nat) :
    roundPack s sig e ≤ s * 2 ^ 63 + 0x7FF0000000000000 := by
  unfold roundPack roundPackG
  simp only [Nat.reduceAdd, Nat.reducePow, Nat.reduceSub, Nat.reduceMul]
  split_ifs <;> omega

theorem roundPack_normal (s sig e : Nat) (h0 : sig ≠ 0) (h : 2979 ≤ ilog2 sig + e) :
    s * 2 ^ 63 + 2 ^ 52 ≤ roundPack s sig e := by
  unfold roundPack roundPackG
  simp only [Nat.reduceAdd, Nat.reducePow, Nat.reduceSub, Nat.reduceMul, if_neg h0]
  have hq : 2927 ≤ max (ilog2 sig + e - 52) 2926 := by omega
  generalize max (ilog2 sig + e - 52) 2926 = q at hq ⊢
  split_ifs <;> omega

theorem f64Add_negOne_one : f64Add 0xBFF0000000000000 0x3FF0000000000000 = 0 := by decide!

/-- The sum `-1.0 + x` of a finite positive `x ≠ 1.0` is negative or a normal number. -/
theorem f64Add_negOne (x : Nat) (hx : x < 0x7FF0000000000000) (h1 : x ≠ 0x3FF0000000000000) :
    2 ^ 52 ≤ f64Add 0xBFF0000000000000 x ∧ f64Add 0xBFF0000000000000 x < 2 ^ 64 := by
  have ha : f64IsNaN 0xBFF0000000000000 = false := by decide
  have hsa : f64Sign 0xBFF0000000000000 = 1 := by decide
  have hea : f64E 0xBFF0000000000000 = 1023 := by decide
  have hga : f64Sig 0xBFF0000000000000 = 2 ^ 52 := by decide
  have hia : f64IsInf 0xBFF0000000000000 = false := by decide
  have hb : f64IsNaN x = false := by
    simp only [f64IsNaN, f64Exp, decide_eq_false_iff_not, Nat.reducePow]
    omega
  have hib : f64IsInf x = false := by
    simp only [f64IsInf, f64Exp, decide_eq_false_iff_not, Nat.reducePow]
    omega
  have hsb : f64Sign x = 0 := by
    simp only [f64Sign, Nat.reducePow]
    omega
  have heb : 1 ≤ f64E x ∧ f64E x ≤ 2046 := by
    simp only [f64E, f64Exp, Nat.reducePow]
    split_ifs <;> omega
  have hgb : f64Sig x < 2 ^ 53 := by
    simp only [f64Sig, f64Man, Nat.reducePow]
    split_ifs <;> omega
  have hgb2 : 1023 ≤ f64E x → 2 ^ 52 ≤ f64Sig x := by
    simp only [f64Sig, f64E, f64Exp, f64Man, Nat.reducePow]
    split_ifs <;> omega
  have hone : f64E x = 1023 → f64Sig x ≠ 2 ^ 52 := by
    simp only [f64Sig, f64E, f64Exp, f64Man, Nat.reducePow]
    split_ifs <;> omega
  unfold f64Add f64AddCore
  simp only [ha, hb, hia, hib, hsa, hsb, hea, hga, Bool.false_eq_true, if_false,
    Nat.one_ne_zero]
  generalize hX : f64Sig x * 2 ^ (f64E x - min 1023 (f64E x)) = B
  generalize hY : 2 ^ 52 * 2 ^ (1023 - min 1023 (f64E x)) = A
  have hlo := roundPack_ge 1 (A - B) (min 1023 (f64E x) + 2925)
  have hhi := roundPack_le 1 (A - B) (min 1023 (f64E x) + 2925)
  have hhi0 := roundPack_le 0 (B - A) (min 1023 (f64E x) + 2925)
  split_ifs with c1 c2
  · omega
  · have he : 1023 ≤ f64E x := by
      by_contra hlt
      have h2 : min 1023 (f64E x) = f64E x := by omega
      rw [h2] at hX hY
      have h3 : (2 : Nat) ^ 1 ≤ 2 ^ (1023 - f64E x) :=
        Nat.pow_le_pow_right (by decide) (by omega)
      rw [Nat.sub_self, Nat.pow_zero, Nat.mul_one] at hX
      have h4 : 2 ^ 52 * 2 ^ 1 ≤ 2 ^ 52 * 2 ^ (1023 - f64E x) := Nat.mul_le_mul_left _ h3
      omega
    have h2 : min 1023 (f64E x) = 1023 := by omega
    have hn := roundPack_normal 0 (B - A) (min 1023 (f64E x) + 2925) (by omega) (by omega)
    omega
  · exfalso
    have hAB : A = B := by omega
    by_cases he : f64E x < 1023
    · have h2 : min 1023 (f64E x) = f64E x := by omega
      rw [h2] at hX hY
      have h3 : (2 : Nat) ^ 1 ≤ 2 ^ (1023 - f64E x) :=
        Nat.pow_le_pow_right (by decide) (by omega)
      rw [Nat.sub_self, Nat.pow_zero, Nat.mul_one] at hX
      have h4 : 2 ^ 52 * 2 ^ 1 ≤ 2 ^ 52 * 2 ^ (1023 - f64E x) := Nat.mul_le_mul_left _ h3
      omega
    · have h2 : min 1023 (f64E x) = 1023 := by omega
      rw [h2] at hX hY
      rw [Nat.sub_self, Nat.pow_zero, Nat.mul_one] at hY
      by_cases he2 : f64E x = 1023
      · rw [he2, Nat.sub_self, Nat.pow_zero, Nat.mul_one] at hX
        have := hone he2
        omega
      · have h3 : (2 : Nat) ^ 1 ≤ 2 ^ (f64E x - 1023) :=
          Nat.pow_le_pow_right (by decide) (by omega)
        have h4 : 2 ^ 52 * 2 ^ 1 ≤ f64Sig x * 2 ^ (f64E x - 1023) :=
          Nat.mul_le_mul (hgb2 (by omega)) h3
        omega

/-! ### The sum `1.5 * 2^52 + y` at `y = 2^51 + 1` -/

theorem f64Add_magic_odd :
    f64Add 0x4338000000000000 0x4320000000000002 = 0x4340000000000000 := by decide!

theorem f64Sub_magic_odd :
    f64Sub 0x4338000000000000 0x4340000000000000 = 0xC320000000000000 := by decide!

theorem f64Add_odd_rest :
    f64Add 0x4320000000000002 0xC320000000000000 = 0x3FF0000000000000 := by decide!

end MacroAssembler

namespace MacroAssembler
open XReg GReg Machine

/-! ### Acyclic control flow -/

theorem descends_exit (rank : Label → Nat) (b : Label) (t t0 : List Label)
    (h : t = b :: t0) : Descends rank b t t0 :=
  ⟨[], by rw [h]; rfl, List.chain'_singleton b⟩

theorem descends_step (rank : Label → Nat) (b c : Label) (t t1 t0 : List Label)
    (h1 : t1 = b :: t0) (hr : rank c < rank b) (h : Descends rank c t t1) :
    Descends rank b t t0 := by
  obtain ⟨l, e, ch⟩ := h
  refine ⟨l ++ [c], by rw [e, h1]; simp, ?_⟩
  exact List.Chain'.append ch (List.chain'_singleton b) (by
    intro x hx y hy
    rw [List.getLast?_concat] at hx
    cases hx
    cases hy
    exact hr)

theorem descends_lt (rank : Label → Nat) (b : Label) (t t0 : List Label)
    (h : Descends rank b t t0) : ∃ l, t = l ++ b :: t0 ∧ ∀ x ∈ l, rank x < rank b := by
  obtain ⟨l, e, ch⟩ := h
  refine ⟨l, e, fun x hx => ?_⟩
  have tr : IsTrans Label (fun x y => rank x < rank y) := ⟨fun _ _ _ => Nat.lt_trans⟩
  have pw : List.Pairwise (fun x y => rank x < rank y) (l ++ [b]) :=
    List.chain'_iff_pairwise.1 ch
  exact (List.pairwise_append.1 pw).2.2 x hx b (List.mem_singleton_self b)

namespace fast_exp

theorem exp_B1_5_1_trace (cpu : Cpu) (s : Machine) :
    (B1_5_1 cpu s).trace = Label.B1_5 :: s.trace := rfl

theorem exp_L_2TAG_PACKET_11_0_2_1_trace (cpu : Cpu) (s : Machine) :
    (L_2TAG_PACKET_11_0_2_1 cpu s).trace = Label.L_2TAG_PACKET_11_0_2 :: s.trace := rfl

theorem exp_L_2TAG_PACKET_12_0_2_1_trace (cpu : Cpu) (s : Machine) :
    (L_2TAG_PACKET_12_0_2_1 cpu s).trace = Label.L_2TAG_PACKET_12_0_2 :: s.trace := rfl

theorem exp_L_2TAG_PACKET_9_0_2_1_trace (cpu : Cpu) (s : Machine) :
    (L_2TAG_PACKET_9_0_2_1 cpu s).trace = Label.L_2TAG_PACKET_9_0_2 :: s.trace := rfl

theorem exp_L_2TAG_PACKET_9_0_2_2_trace (cpu : Cpu) (s : Machine) :
    (L_2TAG_PACKET_9_0_2_2 cpu s).trace = s.trace := rfl

theorem exp_L_2TAG_PACKET_9_0_2_3_trace (cpu : Cpu) (s : Machine) :
    (L_2TAG_PACKET_9_0_2_3 cpu s).trace = s.trace := rfl

theorem exp_L_2TAG_PACKET_9_0_2_4_trace (cpu : Cpu) (s : Machine) :
    (L_2TAG_PACKET_9_0_2_4 cpu s).trace = s.trace := rfl

theorem exp_B1_3_1_trace (cpu : Cpu) (s : Machine) :
    (B1_3_1 cpu s).trace = Label.B1_3 :: s.trace := rfl

theorem exp_L_2TAG_PACKET_6_0_2_1_trace (cpu : Cpu) (s : Machine) :
    (L_2TAG_PACKET_6_0_2_1 cpu s).trace = Label.L_2TAG_PACKET_6_0_2 :: s.trace := rfl

theorem exp_L_2TAG_PACKET_10_0_2_1_trace (cpu : Cpu) (s : Machine) :
    (L_2TAG_PACKET_10_0_2_1 cpu s).trace = Label.L_2TAG_PACKET_10_0_2 :: s.trace := rfl

theorem exp_L_2TAG_PACKET_7_0_2_1_trace (cpu : Cpu) (s : Machine) :
    (L_2TAG_PACKET_7_0_2_1 cpu s).trace = Label.L_2TAG_PACKET_7_0_2 :: s.trace := rfl

theorem exp_L_2TAG_PACKET_8_0_2_1_trace (cpu : Cpu) (s : Machine) :
    (L_2TAG_PACKET_8_0_2_1 cpu s).trace = Label.L_2TAG_PACKET_8_0_2 :: s.trace := rfl

theorem exp_L_2TAG_PACKET_8_0_2_2_trace (cpu : Cpu) (s : Machine) :
    (L_2TAG_PACKET_8_0_2_2 cpu s).trace = s.trace := rfl

theorem exp_L_2TAG_PACKET_8_0_2_3_trace (cpu : Cpu) (s : Machine) :
    (L_2TAG_PACKET_8_0_2_3 cpu s).trace = s.trace := rfl

theorem exp_L_2TAG_PACKET_0_0_2_1_trace (cpu : Cpu) (s : Machine) :
    (L_2TAG_PACKET_0_0_2_1 cpu s).trace = Label.L_2TAG_PACKET_0_0_2 :: s.trace := rfl

theorem exp_L_2TAG_PACKET_0_0_2_2_trace (cpu : Cpu) (s : Machine) :
    (L_2TAG_PACKET_0_0_2_2 cpu s).trace = s.trace := rfl

theorem exp_L_2TAG_PACKET_2_0_2_1_trace (cpu : Cpu) (s : Machine) :
    (L_2TAG_PACKET_2_0_2_1 cpu s).trace = Label.L_2TAG_PACKET_2_0_2 :: s.trace := rfl

theorem exp_L_2TAG_PACKET_3_0_2_1_trace (cpu : Cpu) (s : Machine) :
    (L_2TAG_PACKET_3_0_2_1 cpu s).trace = Label.L_2TAG_PACKET_3_0_2 :: s.trace := rfl

theorem exp_L_2TAG_PACKET_3_0_2_2_trace (cpu : Cpu) (s : Machine) :
    (L_2TAG_PACKET_3_0_2_2 cpu s).trace = s.trace := rfl

theorem exp_L_2TAG_PACKET_4_0_2_1_trace (cpu : Cpu) (s : Machine) :
    (L_2TAG_PACKET_4_0_2_1 cpu s).trace = Label.L_2TAG_PACKET_4_0_2 :: s.trace := rfl

theorem exp_L_2TAG_PACKET_5_0_2_1_trace (cpu : Cpu) (s : Machine) :
    (L_2TAG_PACKET_5_0_2_1 cpu s).trace = Label.L_2TAG_PACKET_5_0_2 :: s.trace := rfl

theorem exp_L_2TAG_PACKET_1_0_2_1_trace (cpu : Cpu) (s : Machine) :
    (L_2TAG_PACKET_1_0_2_1 cpu s).trace = Label.L_2TAG_PACKET_1_0_2 :: s.trace := by
  set_option maxRecDepth 8000 in
  simp only [
      ↓reduceIte, ↓fast_exp.exp_L_2TAG_PACKET_1_0_2_1_sem, ↓Machine.get_setx,
      ↓Machine.get_setg, ↓Machine.get_setstk, ↓Machine.get_enter, ↓Machine.get_setFlags,
      ↓Machine.trace_set, ↓Machine.get_ite, ↓Machine.trace_ite, ↓Machine.obs_eq_get,
      ↓Machine.flags_get, ↓Machine.flags_trace, ↓sem_get_1, ↓sem_get_2, ↓sem_get_3,
      ↓sem_get_4, ↓sem_trace_1, ↓sem_trace_2, ↓sem_trace_3, ↓sem_trace_4, ↓load_const,
      cc_iff, ea, and_imm, and_imm_left, ilog2_lit, or_eq_zero, or_mod32, or_lt_2p31,
      Nat.mod_mod, Nat.zero_or, Nat.or_zero, Nat.sub_zero, Nat.add_mod_right, lane_eq,
      Machine.io_eq_get, Nat.xor_self, Loc.x.injEq, Loc.g.injEq, Loc.m.injEq,
      Bool.toNat_eq_zero, Bool.toNat_eq_one, Nat.reducePow, Nat.reduceMul, Nat.reduceMod,
      Nat.reduceAdd, Nat.reduceSub, Nat.reduceDiv, Nat.reduceEqDiff, Nat.reduceLTLE,
      Nat.reduceLeDiff, Nat.reduceLT, Nat.reduceGT, Nat.reduceOr, Nat.reduceXor,
      reduceCtorEq, Bool.not_eq_true', Bool.not_eq_true, decide_eq_true_eq,
      decide_eq_false_iff_not, Bool.and_eq_true, Bool.or_eq_true, bne_iff_ne, beq_iff_eq,
      ne_eq, Bool.not_eq_false', Bool.not_eq_false, decide_not, not_not,
      Bool.decide_eq_true, Bool.false_eq_true, Bool.true_eq_false, not_false_eq_true,
      not_true_eq_false, and_true, true_and, and_false, false_and, or_true, true_or,
      or_false, false_or, not_true, not_false_iff, iff_self, true_iff, iff_true, false_iff,
      iff_false, ite_self, decide_eq_decide, decide_False, decide_True, Bool.not_true,
      Bool.not_false]

theorem exp_L_2TAG_PACKET_1_0_2_2_trace (cpu : Cpu) (s : Machine) :
    (L_2TAG_PACKET_1_0_2_2 cpu s).trace = s.trace := rfl

theorem exp_L_2TAG_PACKET_1_0_2_3_trace (cpu : Cpu) (s : Machine) :
    (L_2TAG_PACKET_1_0_2_3 cpu s).trace = s.trace := rfl

theorem exp_L_2TAG_PACKET_1_0_2_4_trace (cpu : Cpu) (s : Machine) :
    (L_2TAG_PACKET_1_0_2_4 cpu s).trace = s.trace := rfl

theorem exp_L_2TAG_PACKET_1_0_2_5_trace (cpu : Cpu) (s : Machine) :
    (L_2TAG_PACKET_1_0_2_5 cpu s).trace = s.trace := rfl

theorem exp_start_1_trace (cpu : Cpu) (s : Machine) :
    (start_1 cpu s).trace = Label.start :: s.trace := rfl

theorem exp_start_2_trace (cpu : Cpu) (s : Machine) :
    (start_2 cpu s).trace = s.trace := by
  set_option maxRecDepth 8000 in
  simp only [
      ↓reduceIte, ↓fast_exp.exp_start_2_sem, ↓Machine.get_setx, ↓Machine.get_setg,
      ↓Machine.get_setstk, ↓Machine.get_enter, ↓Machine.get_setFlags, ↓Machine.trace_set,
      ↓Machine.get_ite, ↓Machine.trace_ite, ↓Machine.obs_eq_get, ↓Machine.flags_get,
      ↓Machine.flags_trace, ↓sem_get_1, ↓sem_get_2, ↓sem_get_3, ↓sem_get_4, ↓sem_trace_1,
      ↓sem_trace_2, ↓sem_trace_3, ↓sem_trace_4, ↓load_const, cc_iff, ea, and_imm,
      and_imm_left, ilog2_lit, or_eq_zero, or_mod32, or_lt_2p31, Nat.mod_mod, Nat.zero_or,
      Nat.or_zero, Nat.sub_zero, Nat.add_mod_right, lane_eq, Machine.io_eq_get,
      Nat.xor_self, Loc.x.injEq, Loc.g.injEq, Loc.m.injEq, Bool.toNat_eq_zero,
      Bool.toNat_eq_one, Nat.reducePow, Nat.reduceMul, Nat.reduceMod, Nat.reduceAdd,
      Nat.reduceSub, Nat.reduceDiv, Nat.reduceEqDiff, Nat.reduceLTLE, Nat.reduceLeDiff,
      Nat.reduceLT, Nat.reduceGT, Nat.reduceOr, Nat.reduceXor, reduceCtorEq,
      Bool.not_eq_true', Bool.not_eq_true, decide_eq_true_eq, decide_eq_false_iff_not,
      Bool.and_eq_true, Bool.or_eq_true, bne_iff_ne, beq_iff_eq, ne_eq, Bool.not_eq_false',
      Bool.not_eq_false, decide_not, not_not, Bool.decide_eq_true, Bool.false_eq_true,
      Bool.true_eq_false, not_false_eq_true, not_true_eq_false, and_true, true_and,
      and_false, false_and, or_true, true_or, or_false, false_or, not_true, not_false_iff,
      iff_self, true_iff, iff_true, false_iff, iff_false, ite_self, decide_eq_decide,
      decide_False, decide_True, Bool.not_true, Bool.not_false]

theorem exp_start_3_trace (cpu : Cpu) (s : Machine) :
    (start_3 cpu s).trace = s.trace := rfl

theorem exp_entry_1_trace (cpu : Cpu) (s : Machine) :
    (entry_1 cpu s).trace = Label.entry :: s.trace := rfl

theorem exp_B1_5_descends (r : Label → Nat) (hr : ∀ b, ∀ c ∈ succ b, r c < r b)
    (cpu : Cpu) (s : Machine) :
    Descends r .B1_5 (B1_5 cpu s).trace s.trace := by
  rw [exp_B1_5_eq]
  · exact descends_exit _ _ _ _ (by rw [exp_B1_5_1_trace])

theorem exp_L_2TAG_PACKET_11_0_2_descends (r : Label → Nat) (hr : ∀ b, ∀ c ∈ succ b, r c < r b)
    (cpu : Cpu) (s : Machine) :
    Descends r .L_2TAG_PACKET_11_0_2 (L_2TAG_PACKET_11_0_2 cpu s).trace s.trace := by
  rw [exp_L_2TAG_PACKET_11_0_2_eq]
  · exact descends_step _ _ .B1_5 _ _ _ (by rw [exp_L_2TAG_PACKET_11_0_2_1_trace]) (hr _ _ (by decide))
      (exp_B1_5_descends r hr cpu _)

theorem exp_L_2TAG_PACKET_12_0_2_descends (r : Label → Nat) (hr : ∀ b, ∀ c ∈ succ b, r c < r b)
    (cpu : Cpu) (s : Machine) :
    Descends r .L_2TAG_PACKET_12_0_2 (L_2TAG_PACKET_12_0_2 cpu s).trace s.trace := by
  rw [exp_L_2TAG_PACKET_12_0_2_eq]
  · exact descends_step _ _ .B1_5 _ _ _ (by rw [exp_L_2TAG_PACKET_12_0_2_1_trace]) (hr _ _ (by decide))
      (exp_B1_5_descends r hr cpu _)

theorem exp_L_2TAG_PACKET_9_0_2_descends (r : Label → Nat) (hr : ∀ b, ∀ c ∈ succ b, r c < r b)
    (cpu : Cpu) (s : Machine) :
    Descends r .L_2TAG_PACKET_9_0_2 (L_2TAG_PACKET_9_0_2 cpu s).trace s.trace := by
  rw [exp_L_2TAG_PACKET_9_0_2_eq]
  split_ifs
  · exact descends_step _ _ .L_2TAG_PACKET_11_0_2 _ _ _ (by rw [exp_L_2TAG_PACKET_9_0_2_1_trace]) (hr _ _ (by decide))
      (exp_L_2TAG_PACKET_11_0_2_descends r hr cpu _)
  · exact descends_step _ _ .L_2TAG_PACKET_11_0_2 _ _ _ (by rw [exp_L_2TAG_PACKET_9_0_2_2_trace, exp_L_2TAG_PACKET_9_0_2_1_trace]) (hr _ _ (by decide))
      (exp_L_2TAG_PACKET_11_0_2_descends r hr cpu _)
  · exact descends_step _ _ .L_2TAG_PACKET_12_0_2 _ _ _ (by rw [exp_L_2TAG_PACKET_9_0_2_3_trace, exp_L_2TAG_PACKET_9_0_2_2_trace, exp_L_2TAG_PACKET_9_0_2_1_trace]) (hr _ _ (by decide))
      (exp_L_2TAG_PACKET_12_0_2_descends r hr cpu _)
  · exact descends_step _ _ .B1_5 _ _ _ (by rw [exp_L_2TAG_PACKET_9_0_2_4_trace, exp_L_2TAG_PACKET_9_0_2_3_trace, exp_L_2TAG_PACKET_9_0_2_2_trace, exp_L_2TAG_PACKET_9_0_2_1_trace]) (hr _ _ (by decide))
      (exp_B1_5_descends r hr cpu _)

theorem exp_B1_3_descends (r : Label → Nat) (hr : ∀ b, ∀ c ∈ succ b, r c < r b)
    (cpu : Cpu) (s : Machine) :
    Descends r .B1_3 (B1_3 cpu s).trace s.trace := by
  rw [exp_B1_3_eq]
  · exact descends_step _ _ .B1_5 _ _ _ (by rw [exp_B1_3_1_trace]) (hr _ _ (by decide))
      (exp_B1_5_descends r hr cpu _)

theorem exp_L_2TAG_PACKET_6_0_2_descends (r : Label → Nat) (hr : ∀ b, ∀ c ∈ succ b, r c < r b)
    (cpu : Cpu) (s : Machine) :
    Descends r .L_2TAG_PACKET_6_0_2 (L_2TAG_PACKET_6_0_2 cpu s).trace s.trace := by
  rw [exp_L_2TAG_PACKET_6_0_2_eq]
  · exact descends_step _ _ .B1_3 _ _ _ (by rw [exp_L_2TAG_PACKET_6_0_2_1_trace]) (hr _ _ (by decide))
      (exp_B1_3_descends r hr cpu _)

theorem exp_L_2TAG_PACKET_10_0_2_descends (r : Label → Nat) (hr : ∀ b, ∀ c ∈ succ b, r c < r b)
    (cpu : Cpu) (s : Machine) :
    Descends r .L_2TAG_PACKET_10_0_2 (L_2TAG_PACKET_10_0_2 cpu s).trace s.trace := by
  rw [exp_L_2TAG_PACKET_10_0_2_eq]
  · exact descends_step _ _ .L_2TAG_PACKET_6_0_2 _ _ _ (by rw [exp_L_2TAG_PACKET_10_0_2_1_trace]) (hr _ _ (by decide))
      (exp_L_2TAG_PACKET_6_0_2_descends r hr cpu _)

theorem exp_L_2TAG_PACKET_7_0_2_descends (r : Label → Nat) (hr : ∀ b, ∀ c ∈ succ b, r c < r b)
    (cpu : Cpu) (s : Machine) :
    Descends r .L_2TAG_PACKET_7_0_2 (L_2TAG_PACKET_7_0_2 cpu s).trace s.trace := by
  rw [exp_L_2TAG_PACKET_7_0_2_eq]
  · exact descends_step _ _ .L_2TAG_PACKET_6_0_2 _ _ _ (by rw [exp_L_2TAG_PACKET_7_0_2_1_trace]) (hr _ _ (by decide))
      (exp_L_2TAG_PACKET_6_0_2_descends r hr cpu _)

theorem exp_L_2TAG_PACKET_8_0_2_descends (r : Label → Nat) (hr : ∀ b, ∀ c ∈ succ b, r c < r b)
    (cpu : Cpu) (s : Machine) :
    Descends r .L_2TAG_PACKET_8_0_2 (L_2TAG_PACKET_8_0_2 cpu s).trace s.trace := by
  rw [exp_L_2TAG_PACKET_8_0_2_eq]
  split_ifs
  · exact descends_step _ _ .L_2TAG_PACKET_9_0_2 _ _ _ (by rw [exp_L_2TAG_PACKET_8_0_2_1_trace]) (hr _ _ (by decide))
      (exp_L_2TAG_PACKET_9_0_2_descends r hr cpu _)
  · exact descends_step _ _ .L_2TAG_PACKET_10_0_2 _ _ _ (by rw [exp_L_2TAG_PACKET_8_0_2_2_trace, exp_L_2TAG_PACKET_8_0_2_1_trace]) (hr _ _ (by decide))
      (exp_L_2TAG_PACKET_10_0_2_descends r hr cpu _)
  · exact descends_step _ _ .L_2TAG_PACKET_7_0_2 _ _ _ (by rw [exp_L_2TAG_PACKET_8_0_2_3_trace, exp_L_2TAG_PACKET_8_0_2_2_trace, exp_L_2TAG_PACKET_8_0_2_1_trace]) (hr _ _ (by decide))
      (exp_L_2TAG_PACKET_7_0_2_descends r hr cpu _)

theorem exp_L_2TAG_PACKET_0_0_2_descends (r : Label → Nat) (hr : ∀ b, ∀ c ∈ succ b, r c < r b)
    (cpu : Cpu) (s : Machine) :
    Descends r .L_2TAG_PACKET_0_0_2 (L_2TAG_PACKET_0_0_2 cpu s).trace s.trace := by
  rw [exp_L_2TAG_PACKET_0_0_2_eq]
  split_ifs
  · exact descends_step _ _ .L_2TAG_PACKET_8_0_2 _ _ _ (by rw [exp_L_2TAG_PACKET_0_0_2_1_trace]) (hr _ _ (by decide))
      (exp_L_2TAG_PACKET_8_0_2_descends r hr cpu _)
  · exact descends_step _ _ .B1_5 _ _ _ (by rw [exp_L_2TAG_PACKET_0_0_2_2_trace, exp_L_2TAG_PACKET_0_0_2_1_trace]) (hr _ _ (by decide))
      (exp_B1_5_descends r hr cpu _)

theorem exp_L_2TAG_PACKET_2_0_2_descends (r : Label → Nat) (hr : ∀ b, ∀ c ∈ succ b, r c < r b)
    (cpu : Cpu) (s : Machine) :
    Descends r .L_2TAG_PACKET_2_0_2 (L_2TAG_PACKET_2_0_2 cpu s).trace s.trace := by
  rw [exp_L_2TAG_PACKET_2_0_2_eq]
  · exact descends_step _ _ .L_2TAG_PACKET_6_0_2 _ _ _ (by rw [exp_L_2TAG_PACKET_2_0_2_1_trace]) (hr _ _ (by decide))
      (exp_L_2TAG_PACKET_6_0_2_descends r hr cpu _)

theorem exp_L_2TAG_PACKET_3_0_2_descends (r : Label → Nat) (hr : ∀ b, ∀ c ∈ succ b, r c < r b)
    (cpu : Cpu) (s : Machine) :
    Descends r .L_2TAG_PACKET_3_0_2 (L_2TAG_PACKET_3_0_2 cpu s).trace s.trace := by
  rw [exp_L_2TAG_PACKET_3_0_2_eq]
  split_ifs
  · exact descends_step _ _ .L_2TAG_PACKET_7_0_2 _ _ _ (by rw [exp_L_2TAG_PACKET_3_0_2_1_trace]) (hr _ _ (by decide))
      (exp_L_2TAG_PACKET_7_0_2_descends r hr cpu _)
  · exact descends_step _ _ .B1_5 _ _ _ (by rw [exp_L_2TAG_PACKET_3_0_2_2_trace, exp_L_2TAG_PACKET_3_0_2_1_trace]) (hr _ _ (by decide))
      (exp_B1_5_descends r hr cpu _)

theorem exp_L_2TAG_PACKET_4_0_2_descends (r : Label → Nat) (hr : ∀ b, ∀ c ∈ succ b, r c < r b)
    (cpu : Cpu) (s : Machine) :
    Descends r .L_2TAG_PACKET_4_0_2 (L_2TAG_PACKET_4_0_2 cpu s).trace s.trace := by
  rw [exp_L_2TAG_PACKET_4_0_2_eq]
  · exact descends_step _ _ .B1_5 _ _ _ (by rw [exp_L_2TAG_PACKET_4_0_2_1_trace]) (hr _ _ (by decide))
      (exp_B1_5_descends r hr cpu _)

theorem exp_L_2TAG_PACKET_5_0_2_descends (r : Label → Nat) (hr : ∀ b, ∀ c ∈ succ b, r c < r b)
    (cpu : Cpu) (s : Machine) :
    Descends r .L_2TAG_PACKET_5_0_2 (L_2TAG_PACKET_5_0_2 cpu s).trace s.trace := by
  rw [exp_L_2TAG_PACKET_5_0_2_eq]
  · exact descends_step _ _ .L_2TAG_PACKET_6_0_2 _ _ _ (by rw [exp_L_2TAG_PACKET_5_0_2_1_trace]) (hr _ _ (by decide))
      (exp_L_2TAG_PACKET_6_0_2_descends r hr cpu _)

theorem exp_L_2TAG_PACKET_1_0_2_descends (r : Label → Nat) (hr : ∀ b, ∀ c ∈ succ b, r c < r b)
    (cpu : Cpu) (s : Machine) :
    Descends r .L_2TAG_PACKET_1_0_2 (L_2TAG_PACKET_1_0_2 cpu s).trace s.trace := by
  rw [exp_L_2TAG_PACKET_1_0_2_eq]
  split_ifs
  · exact descends_step _ _ .L_2TAG_PACKET_2_0_2 _ _ _ (by rw [exp_L_2TAG_PACKET_1_0_2_1_trace]) (hr _ _ (by decide))
      (exp_L_2TAG_PACKET_2_0_2_descends r hr cpu _)
  · exact descends_step _ _ .L_2TAG_PACKET_3_0_2 _ _ _ (by rw [exp_L_2TAG_PACKET_1_0_2_2_trace, exp_L_2TAG_PACKET_1_0_2_1_trace]) (hr _ _ (by decide))
      (exp_L_2TAG_PACKET_3_0_2_descends r hr cpu _)
  · exact descends_step _ _ .L_2TAG_PACKET_4_0_2 _ _ _ (by rw [exp_L_2TAG_PACKET_1_0_2_3_trace, exp_L_2TAG_PACKET_1_0_2_2_trace, exp_L_2TAG_PACKET_1_0_2_1_trace]) (hr _ _ (by decide))
      (exp_L_2TAG_PACKET_4_0_2_descends r hr cpu _)
  · exact descends_step _ _ .L_2TAG_PACKET_5_0_2 _ _ _ (by rw [exp_L_2TAG_PACKET_1_0_2_4_trace, exp_L_2TAG_PACKET_1_0_2_3_trace, exp_L_2TAG_PACKET_1_0_2_2_trace, exp_L_2TAG_PACKET_1_0_2_1_trace]) (hr _ _ (by decide))
      (exp_L_2TAG_PACKET_5_0_2_descends r hr cpu _)
  · exact descends_step _ _ .B1_5 _ _ _ (by rw [exp_L_2TAG_PACKET_1_0_2_5_trace, exp_L_2TAG_PACKET_1_0_2_4_trace, exp_L_2TAG_PACKET_1_0_2_3_trace, exp_L_2TAG_PACKET_1_0_2_2_trace, exp_L_2TAG_PACKET_1_0_2_1_trace]) (hr _ _ (by decide))
      (exp_B1_5_descends r hr cpu _)

theorem exp_start_descends (r : Label → Nat) (hr : ∀ b, ∀ c ∈ succ b, r c < r b)
    (cpu : Cpu) (s : Machine) :
    Descends r .start (start cpu s).trace s.trace := by
  rw [exp_start_eq]
  split_ifs
  · exact descends_step _ _ .L_2TAG_PACKET_0_0_2 _ _ _ (by rw [exp_start_1_trace]) (hr _ _ (by decide))
      (exp_L_2TAG_PACKET_0_0_2_descends r hr cpu _)
  · exact descends_step _ _ .L_2TAG_PACKET_1_0_2 _ _ _ (by rw [exp_start_2_trace, exp_start_1_trace]) (hr _ _ (by decide))
      (exp_L_2TAG_PACKET_1_0_2_descends r hr cpu _)
  · exact descends_step _ _ .B1_5 _ _ _ (by rw [exp_start_3_trace, exp_start_2_trace, exp_start_1_trace]) (hr _ _ (by decide))
      (exp_B1_5_descends r hr cpu _)

theorem exp_entry_descends (r : Label → Nat) (hr : ∀ b, ∀ c ∈ succ b, r c < r b)
    (cpu : Cpu) (s : Machine) :
    Descends r .entry (entry cpu s).trace s.trace := by
  rw [exp_entry_eq]
  · exact descends_step _ _ .start _ _ _ (by rw [exp_entry_1_trace]) (hr _ _ (by decide))
      (exp_start_descends r hr cpu _)

end fast_exp

namespace fast_log

theorem log_B1_5_1_trace (cpu : Cpu) (s : Machine) :
    (B1_5_1 cpu s).trace = Label.B1_5 :: s.trace := rfl

theorem log_B1_3_1_trace (cpu : Cpu) (s : Machine) :
    (B1_3_1 cpu s).trace = Label.B1_3 :: s.trace := rfl

theorem log_L_2TAG_PACKET_8_0_2_1_trace (cpu : Cpu) (s : Machine) :
    (L_2TAG_PACKET_8_0_2_1 cpu s).trace = Label.L_2TAG_PACKET_8_0_2 :: s.trace := rfl

theorem log_L_2TAG_PACKET_7_0_2_1_trace (cpu : Cpu) (s : Machine) :
    (L_2TAG_PACKET_7_0_2_1 cpu s).trace = Label.L_2TAG_PACKET_7_0_2 :: s.trace := rfl

theorem log_L_2TAG_PACKET_6_0_2_1_trace (cpu : Cpu) (s : Machine) :
    (L_2TAG_PACKET_6_0_2_1 cpu s).trace = Label.L_2TAG_PACKET_6_0_2 :: s.trace := rfl

theorem log_L_2TAG_PACKET_4_0_2_1_trace (cpu : Cpu) (s : Machine) :
    (L_2TAG_PACKET_4_0_2_1 cpu s).trace = Label.L_2TAG_PACKET_4_0_2 :: s.trace := rfl

theorem log_L_2TAG_PACKET_5_0_2_1_trace (cpu : Cpu) (s : Machine) :
    (L_2TAG_PACKET_5_0_2_1 cpu s).trace = Label.L_2TAG_PACKET_5_0_2 :: s.trace := rfl

theorem log_L_2TAG_PACKET_5_0_2_2_trace (cpu : Cpu) (s : Machine) :
    (L_2TAG_PACKET_5_0_2_2 cpu s).trace = s.trace := rfl

theorem log_L_2TAG_PACKET_5_0_2_3_trace (cpu : Cpu) (s : Machine) :
    (L_2TAG_PACKET_5_0_2_3 cpu s).trace = s.trace := rfl

theorem log_L_2TAG_PACKET_2_0_2_1_trace (cpu : Cpu) (s : Machine) :
    (L_2TAG_PACKET_2_0_2_1 cpu s).trace = Label.L_2TAG_PACKET_2_0_2 :: s.trace := rfl

theorem log_L_2TAG_PACKET_2_0_2_2_trace (cpu : Cpu) (s : Machine) :
    (L_2TAG_PACKET_2_0_2_2 cpu s).trace = s.trace := rfl

theorem log_L_2TAG_PACKET_2_0_2_3_trace (cpu : Cpu) (s : Machine) :
    (L_2TAG_PACKET_2_0_2_3 cpu s).trace = s.trace := rfl

theorem log_L_2TAG_PACKET_1_0_2_1_trace (cpu : Cpu) (s : Machine) :
    (L_2TAG_PACKET_1_0_2_1 cpu s).trace = Label.L_2TAG_PACKET_1_0_2 :: s.trace := by
  set_option maxRecDepth 8000 in
  simp only [
      ↓reduceIte, ↓fast_log.log_L_2TAG_PACKET_1_0_2_1_sem, ↓Machine.get_setx,
      ↓Machine.get_setg, ↓Machine.get_setstk, ↓Machine.get_enter, ↓Machine.get_setFlags,
      ↓Machine.trace_set, ↓Machine.get_ite, ↓Machine.trace_ite, ↓Machine.obs_eq_get,
      ↓Machine.flags_get, ↓Machine.flags_trace, ↓sem_get_1, ↓sem_get_2, ↓sem_get_3,
      ↓sem_get_4, ↓sem_trace_1, ↓sem_trace_2, ↓sem_trace_3, ↓sem_trace_4, ↓load_const,
      cc_iff, ea, and_imm, and_imm_left, ilog2_lit, or_eq_zero, or_mod32, or_lt_2p31,
      Nat.mod_mod, Nat.zero_or, Nat.or_zero, Nat.sub_zero, Nat.add_mod_right, lane_eq,
      Machine.io_eq_get, Nat.xor_self, Loc.x.injEq, Loc.g.injEq, Loc.m.injEq,
      Bool.toNat_eq_zero, Bool.toNat_eq_one, Nat.reducePow, Nat.reduceMul, Nat.reduceMod,
      Nat.reduceAdd, Nat.reduceSub, Nat.reduceDiv, Nat.reduceEqDiff, Nat.reduceLTLE,
      Nat.reduceLeDiff, Nat.reduceLT, Nat.reduceGT, Nat.reduceOr, Nat.reduceXor,
      reduceCtorEq, Bool.not_eq_true', Bool.not_eq_true, decide_eq_true_eq,
      decide_eq_false_iff_not, Bool.and_eq_true, Bool.or_eq_true, bne_iff_ne, beq_iff_eq,
      ne_eq, Bool.not_eq_false', Bool.not_eq_false, decide_not, not_not,
      Bool.decide_eq_true, Bool.false_eq_true, Bool.true_eq_false, not_false_eq_true,
      not_true_eq_false, and_true, true_and, and_false, false_and, or_true, true_or,
      or_false, false_or, not_true, not_false_iff, iff_self, true_iff, iff_true, false_iff,
      iff_false, ite_self, decide_eq_decide, decide_False, decide_True, Bool.not_true,
      Bool.not_false]

theorem log_L_2TAG_PACKET_3_0_2_1_trace (cpu : Cpu) (s : Machine) :
    (L_2TAG_PACKET_3_0_2_1 cpu s).trace = Label.L_2TAG_PACKET_3_0_2 :: s.trace := rfl

theorem log_L_2TAG_PACKET_3_0_2_2_trace (cpu : Cpu) (s : Machine) :
    (L_2TAG_PACKET_3_0_2_2 cpu s).trace = s.trace := rfl

theorem log_L_2TAG_PACKET_0_0_2_1_trace (cpu : Cpu) (s : Machine) :
    (L_2TAG_PACKET_0_0_2_1 cpu s).trace = Label.L_2TAG_PACKET_0_0_2 :: s.trace := rfl

theorem log_L_2TAG_PACKET_0_0_2_2_trace (cpu : Cpu) (s : Machine) :
    (L_2TAG_PACKET_0_0_2_2 cpu s).trace = s.trace := rfl

theorem log_L_2TAG_PACKET_0_0_2_3_trace (cpu : Cpu) (s : Machine) :
    (L_2TAG_PACKET_0_0_2_3 cpu s).trace = s.trace := rfl

theorem log_start_1_trace (cpu : Cpu) (s : Machine) :
    (start_1 cpu s).trace = Label.start :: s.trace := rfl

theorem log_start_2_trace (cpu : Cpu) (s : Machine) :
    (start_2 cpu s).trace = s.trace := rfl

theorem log_entry_1_trace (cpu : Cpu) (s : Machine) :
    (entry_1 cpu s).trace = Label.entry :: s.trace := rfl

theorem log_B1_5_descends (r : Label → Nat) (hr : ∀ b, ∀ c ∈ succ b, r c < r b)
    (cpu : Cpu) (s : Machine) :
    Descends r .B1_5 (B1_5 cpu s).trace s.trace := by
  rw [log_B1_5_eq]
  · exact descends_exit _ _ _ _ (by rw [log_B1_5_1_trace])

theorem log_B1_3_descends (r : Label → Nat) (hr : ∀ b, ∀ c ∈ succ b, r c < r b)
    (cpu : Cpu) (s : Machine) :
    Descends r .B1_3 (B1_3 cpu s).trace s.trace := by
  rw [log_B1_3_eq]
  · exact descends_step _ _ .B1_5 _ _ _ (by rw [log_B1_3_1_trace]) (hr _ _ (by decide))
      (log_B1_5_descends r hr cpu _)

theorem log_L_2TAG_PACKET_8_0_2_descends (r : Label → Nat) (hr : ∀ b, ∀ c ∈ succ b, r c < r b)
    (cpu : Cpu) (s : Machine) :
    Descends r .L_2TAG_PACKET_8_0_2 (L_2TAG_PACKET_8_0_2 cpu s).trace s.trace := by
  rw [log_L_2TAG_PACKET_8_0_2_eq]
  · exact descends_step _ _ .B1_3 _ _ _ (by rw [log_L_2TAG_PACKET_8_0_2_1_trace]) (hr _ _ (by decide))
      (log_B1_3_descends r hr cpu _)

theorem log_L_2TAG_PACKET_7_0_2_descends (r : Label → Nat) (hr : ∀ b, ∀ c ∈ succ b, r c < r b)
    (cpu : Cpu) (s : Machine) :
    Descends r .L_2TAG_PACKET_7_0_2 (L_2TAG_PACKET_7_0_2 cpu s).trace s.trace := by
  rw [log_L_2TAG_PACKET_7_0_2_eq]
  · exact descends_step _ _ .L_2TAG_PACKET_8_0_2 _ _ _ (by rw [log_L_2TAG_PACKET_7_0_2_1_trace]) (hr _ _ (by decide))
      (log_L_2TAG_PACKET_8_0_2_descends r hr cpu _)

theorem log_L_2TAG_PACKET_6_0_2_descends (r : Label → Nat) (hr : ∀ b, ∀ c ∈ succ b, r c < r b)
    (cpu : Cpu) (s : Machine) :
    Descends r .L_2TAG_PACKET_6_0_2 (L_2TAG_PACKET_6_0_2 cpu s).trace s.trace := by
  rw [log_L_2TAG_PACKET_6_0_2_eq]
  · exact descends_step _ _ .L_2TAG_PACKET_8_0_2 _ _ _ (by rw [log_L_2TAG_PACKET_6_0_2_1_trace]) (hr _ _ (by decide))
      (log_L_2TAG_PACKET_8_0_2_descends r hr cpu _)

theorem log_L_2TAG_PACKET_4_0_2_descends (r : Label → Nat) (hr : ∀ b, ∀ c ∈ succ b, r c < r b)
    (cpu : Cpu) (s : Machine) :
    Descends r .L_2TAG_PACKET_4_0_2 (L_2TAG_PACKET_4_0_2 cpu s).trace s.trace := by
  rw [log_L_2TAG_PACKET_4_0_2_eq]
  · exact descends_step _ _ .B1_5 _ _ _ (by rw [log_L_2TAG_PACKET_4_0_2_1_trace]) (hr _ _ (by decide))
      (log_B1_5_descends r hr cpu _)

theorem log_L_2TAG_PACKET_5_0_2_descends (r : Label → Nat) (hr : ∀ b, ∀ c ∈ succ b, r c < r b)
    (cpu : Cpu) (s : Machine) :
    Descends r .L_2TAG_PACKET_5_0_2 (L_2TAG_PACKET_5_0_2 cpu s).trace s.trace := by
  rw [log_L_2TAG_PACKET_5_0_2_eq]
  split_ifs
  · exact descends_step _ _ .L_2TAG_PACKET_4_0_2 _ _ _ (by rw [log_L_2TAG_PACKET_5_0_2_1_trace]) (hr _ _ (by decide))
      (log_L_2TAG_PACKET_4_0_2_descends r hr cpu _)
  · exact descends_step _ _ .L_2TAG_PACKET_4_0_2 _ _ _ (by rw [log_L_2TAG_PACKET_5_0_2_2_trace, log_L_2TAG_PACKET_5_0_2_1_trace]) (hr _ _ (by decide))
      (log_L_2TAG_PACKET_4_0_2_descends r hr cpu _)
  · exact descends_step _ _ .L_2TAG_PACKET_6_0_2 _ _ _ (by rw [log_L_2TAG_PACKET_5_0_2_3_trace, log_L_2TAG_PACKET_5_0_2_2_trace, log_L_2TAG_PACKET_5_0_2_1_trace]) (hr _ _ (by decide))
      (log_L_2TAG_PACKET_6_0_2_descends r hr cpu _)

theorem log_L_2TAG_PACKET_2_0_2_descends (r : Label → Nat) (hr : ∀ b, ∀ c ∈ succ b, r c < r b)
    (cpu : Cpu) (s : Machine) :
    Descends r .L_2TAG_PACKET_2_0_2 (L_2TAG_PACKET_2_0_2 cpu s).trace s.trace := by
  rw [log_L_2TAG_PACKET_2_0_2_eq]
  split_ifs
  · exact descends_step _ _ .L_2TAG_PACKET_5_0_2 _ _ _ (by rw [log_L_2TAG_PACKET_2_0_2_1_trace]) (hr _ _ (by decide))
      (log_L_2TAG_PACKET_5_0_2_descends r hr cpu _)
  · exact descends_step _ _ .L_2TAG_PACKET_7_0_2 _ _ _ (by rw [log_L_2TAG_PACKET_2_0_2_2_trace, log_L_2TAG_PACKET_2_0_2_1_trace]) (hr _ _ (by decide))
      (log_L_2TAG_PACKET_7_0_2_descends r hr cpu _)
  · exact descends_step _ _ .L_2TAG_PACKET_6_0_2 _ _ _ (by rw [log_L_2TAG_PACKET_2_0_2_3_trace, log_L_2TAG_PACKET_2_0_2_2_trace, log_L_2TAG_PACKET_2_0_2_1_trace]) (hr _ _ (by decide))
      (log_L_2TAG_PACKET_6_0_2_descends r hr cpu _)

theorem log_L_2TAG_PACKET_1_0_2_descends (r : Label → Nat) (hr : ∀ b, ∀ c ∈ succ b, r c < r b)
    (cpu : Cpu) (s : Machine) :
    Descends r .L_2TAG_PACKET_1_0_2 (L_2TAG_PACKET_1_0_2 cpu s).trace s.trace := by
  rw [log_L_2TAG_PACKET_1_0_2_eq]
  · exact descends_step _ _ .B1_5 _ _ _ (by rw [log_L_2TAG_PACKET_1_0_2_1_trace]) (hr _ _ (by decide))
      (log_B1_5_descends r hr cpu _)

theorem log_L_2TAG_PACKET_3_0_2_descends (r : Label → Nat) (hr : ∀ b, ∀ c ∈ succ b, r c < r b)
    (cpu : Cpu) (s : Machine) :
    Descends r .L_2TAG_PACKET_3_0_2 (L_2TAG_PACKET_3_0_2 cpu s).trace s.trace := by
  rw [log_L_2TAG_PACKET_3_0_2_eq]
  split_ifs
  · exact descends_step _ _ .L_2TAG_PACKET_7_0_2 _ _ _ (by rw [log_L_2TAG_PACKET_3_0_2_1_trace]) (hr _ _ (by decide))
      (log_L_2TAG_PACKET_7_0_2_descends r hr cpu _)
  · exact descends_step _ _ .L_2TAG_PACKET_1_0_2 _ _ _ (by rw [log_L_2TAG_PACKET_3_0_2_2_trace, log_L_2TAG_PACKET_3_0_2_1_trace]) (hr _ _ (by decide))
      (log_L_2TAG_PACKET_1_0_2_descends r hr cpu _)

theorem log_L_2TAG_PACKET_0_0_2_descends (r : Label → Nat) (hr : ∀ b, ∀ c ∈ succ b, r c < r b)
    (cpu : Cpu) (s : Machine) :
    Descends r .L_2TAG_PACKET_0_0_2 (L_2TAG_PACKET_0_0_2 cpu s).trace s.trace := by
  rw [log_L_2TAG_PACKET_0_0_2_eq]
  split_ifs
  · exact descends_step _ _ .L_2TAG_PACKET_2_0_2 _ _ _ (by rw [log_L_2TAG_PACKET_0_0_2_1_trace]) (hr _ _ (by decide))
      (log_L_2TAG_PACKET_2_0_2_descends r hr cpu _)
  · exact descends_step _ _ .L_2TAG_PACKET_3_0_2 _ _ _ (by rw [log_L_2TAG_PACKET_0_0_2_2_trace, log_L_2TAG_PACKET_0_0_2_1_trace]) (hr _ _ (by decide))
      (log_L_2TAG_PACKET_3_0_2_descends r hr cpu _)
  · exact descends_step _ _ .L_2TAG_PACKET_4_0_2 _ _ _ (by rw [log_L_2TAG_PACKET_0_0_2_3_trace, log_L_2TAG_PACKET_0_0_2_2_trace, log_L_2TAG_PACKET_0_0_2_1_trace]) (hr _ _ (by decide))
      (log_L_2TAG_PACKET_4_0_2_descends r hr cpu _)

theorem log_start_descends (r : Label → Nat) (hr : ∀ b, ∀ c ∈ succ b, r c < r b)
    (cpu : Cpu) (s : Machine) :
    Descends r .start (start cpu s).trace s.trace := by
  rw [log_start_eq]
  split_ifs
  · exact descends_step _ _ .L_2TAG_PACKET_0_0_2 _ _ _ (by rw [log_start_1_trace]) (hr _ _ (by decide))
      (log_L_2TAG_PACKET_0_0_2_descends r hr cpu _)
  · exact descends_step _ _ .L_2TAG_PACKET_1_0_2 _ _ _ (by rw [log_start_2_trace, log_start_1_trace]) (hr _ _ (by decide))
      (log_L_2TAG_PACKET_1_0_2_descends r hr cpu _)

theorem log_entry_descends (r : Label → Nat) (hr : ∀ b, ∀ c ∈ succ b, r c < r b)
    (cpu : Cpu) (s : Machine) :
    Descends r .entry (entry cpu s).trace s.trace := by
  rw [log_entry_eq]
  · exact descends_step _ _ .start _ _ _ (by rw [log_entry_1_trace]) (hr _ _ (by decide))
      (log_start_descends r hr cpu _)

end fast_log

namespace fast_pow

theorem pow_B1_5_1_trace (cpu : Cpu) (s : Machine) :
    (B1_5_1 cpu s).trace = Label.B1_5 :: s.trace := rfl

theorem pow_L_2TAG_PACKET_56_0_2_1_trace (cpu : Cpu) (s : Machine) :
    (L_2TAG_PACKET_56_0_2_1 cpu s).trace = Label.L_2TAG_PACKET_56_0_2 :: s.trace := rfl

theorem pow_B1_3_1_trace (cpu : Cpu) (s : Machine) :
    (B1_3_1 cpu s).trace = Label.B1_3 :: s.trace := rfl

theorem pow_L_2TAG_PACKET_17_0_2_1_trace (cpu : Cpu) (s : Machine) :
    (L_2TAG_PACKET_17_0_2_1 cpu s).trace = Label.L_2TAG_PACKET_17_0_2 :: s.trace := rfl

theorem pow_L_2TAG_PACKET_44_0_2_1_trace (cpu : Cpu) (s : Machine) :
    (L_2TAG_PACKET_44_0_2_1 cpu s).trace = Label.L_2TAG_PACKET_44_0_2 :: s.trace := rfl

theorem pow_L_2TAG_PACKET_22_0_2_1_trace (cpu : Cpu) (s : Machine) :
    (L_2TAG_PACKET_22_0_2_1 cpu s).trace = Label.L_2TAG_PACKET_22_0_2 :: s.trace := rfl

theorem pow_L_2TAG_PACKET_41_0_2_1_trace (cpu : Cpu) (s : Machine) :
    (L_2TAG_PACKET_41_0_2_1 cpu s).trace = Label.L_2TAG_PACKET_41_0_2 :: s.trace := rfl

theorem pow_L_2TAG_PACKET_41_0_2_2_trace (cpu : Cpu) (s : Machine) :
    (L_2TAG_PACKET_41_0_2_2 cpu s).trace = s.trace := rfl

theorem pow_L_2TAG_PACKET_43_0_2_1_trace (cpu : Cpu) (s : Machine) :
    (L_2TAG_PACKET_43_0_2_1 cpu s).trace = Label.L_2TAG_PACKET_43_0_2 :: s.trace := rfl

theorem pow_L_2TAG_PACKET_43_0_2_2_trace (cpu : Cpu) (s : Machine) :
    (L_2TAG_PACKET_43_0_2_2 cpu s).trace = s.trace := rfl

theorem pow_L_2TAG_PACKET_42_0_2_1_trace (cpu : Cpu) (s : Machine) :
    (L_2TAG_PACKET_42_0_2_1 cpu s).trace = Label.L_2TAG_PACKET_42_0_2 :: s.trace := rfl

theorem pow_L_2TAG_PACKET_42_0_2_2_trace (cpu : Cpu) (s : Machine) :
    (L_2TAG_PACKET_42_0_2_2 cpu s).trace = s.trace := rfl

theorem pow_L_2TAG_PACKET_39_0_2_1_trace (cpu : Cpu) (s : Machine) :
    (L_2TAG_PACKET_39_0_2_1 cpu s).trace = Label.L_2TAG_PACKET_39_0_2 :: s.trace := rfl

theorem pow_L_2TAG_PACKET_40_0_2_1_trace (cpu : Cpu) (s : Machine) :
    (L_2TAG_PACKET_40_0_2_1 cpu s).trace = Label.L_2TAG_PACKET_40_0_2 :: s.trace := rfl

theorem pow_L_2TAG_PACKET_40_0_2_2_trace (cpu : Cpu) (s : Machine) :
    (L_2TAG_PACKET_40_0_2_2 cpu s).trace = s.trace := by
  set_option maxRecDepth 8000 in
  simp only [
      ↓reduceIte, ↓fast_pow.pow_L_2TAG_PACKET_40_0_2_2_sem, ↓Machine.get_setx,
      ↓Machine.get_setg, ↓Machine.get_setstk, ↓Machine.get_enter, ↓Machine.get_setFlags,
      ↓Machine.trace_set, ↓Machine.get_ite, ↓Machine.trace_ite, ↓Machine.obs_eq_get,
      ↓Machine.flags_get, ↓Machine.flags_trace, ↓sem_get_1, ↓sem_get_2, ↓sem_get_3,
      ↓sem_get_4, ↓sem_trace_1, ↓sem_trace_2, ↓sem_trace_3, ↓sem_trace_4, ↓load_const,
      cc_iff, ea, and_imm, and_imm_left, ilog2_lit, or_eq_zero, or_mod32, or_lt_2p31,
      Nat.mod_mod, Nat.zero_or, Nat.or_zero, Nat.sub_zero, Nat.add_mod_right, lane_eq,
      Machine.io_eq_get, Nat.xor_self, Loc.x.injEq, Loc.g.injEq, Loc.m.injEq,
      Bool.toNat_eq_zero, Bool.toNat_eq_one, Nat.reducePow, Nat.reduceMul, Nat.reduceMod,
      Nat.reduceAdd, Nat.reduceSub, Nat.reduceDiv, Nat.reduceEqDiff, Nat.reduceLTLE,
      Nat.reduceLeDiff, Nat.reduceLT, Nat.reduceGT, Nat.reduceOr, Nat.reduceXor,
      reduceCtorEq, Bool.not_eq_true', Bool.not_eq_true, decide_eq_true_eq,
      decide_eq_false_iff_not, Bool.and_eq_true, Bool.or_eq_true, bne_iff_ne, beq_iff_eq,
      ne_eq, Bool.not_eq_false', Bool.not_eq_false, decide_not, not_not,
      Bool.decide_eq_true, Bool.false_eq_true, Bool.true_eq_false, not_false_eq_true,
      not_true_eq_false, and_true, true_and, and_false, false_and, or_true, true_or,
      or_false, false_or, not_true, not_false_iff, iff_self, true_iff, iff_true, false_iff,
      iff_false, ite_self, decide_eq_decide, decide_False, decide_True, Bool.not_true,
      Bool.not_false]

theorem pow_L_2TAG_PACKET_40_0_2_3_trace (cpu : Cpu) (s : Machine) :
    (L_2TAG_PACKET_40_0_2_3 cpu s).trace = s.trace := rfl

theorem pow_L_2TAG_PACKET_40_0_2_4_trace (cpu : Cpu) (s : Machine) :
    (L_2TAG_PACKET_40_0_2_4 cpu s).trace = s.trace := rfl

theorem pow_L_2TAG_PACKET_40_0_2_5_trace (cpu : Cpu) (s : Machine) :
    (L_2TAG_PACKET_40_0_2_5 cpu s).trace = s.trace := rfl

theorem pow_L_2TAG_PACKET_40_0_2_6_trace (cpu : Cpu) (s : Machine) :
    (L_2TAG_PACKET_40_0_2_6 cpu s).trace = s.trace := rfl

theorem pow_L_2TAG_PACKET_40_0_2_7_trace (cpu : Cpu) (s : Machine) :
    (L_2TAG_PACKET_40_0_2_7 cpu s).trace = s.trace := rfl

theorem pow_L_2TAG_PACKET_18_0_2_1_trace (cpu : Cpu) (s : Machine) :
    (L_2TAG_PACKET_18_0_2_1 cpu s).trace = Label.L_2TAG_PACKET_18_0_2 :: s.trace := rfl

theorem pow_L_2TAG_PACKET_9_0_2_1_trace (cpu : Cpu) (s : Machine) :
    (L_2TAG_PACKET_9_0_2_1 cpu s).trace = Label.L_2TAG_PACKET_9_0_2 :: s.trace := rfl

theorem pow_L_2TAG_PACKET_9_0_2_2_trace (cpu : Cpu) (s : Machine) :
    (L_2TAG_PACKET_9_0_2_2 cpu s).trace = s.trace := rfl

theorem pow_L_2TAG_PACKET_9_0_2_3_trace (cpu : Cpu) (s : Machine) :
    (L_2TAG_PACKET_9_0_2_3 cpu s).trace = s.trace := rfl

theorem pow_L_2TAG_PACKET_37_0_2_1_trace (cpu : Cpu) (s : Machine) :
    (L_2TAG_PACKET_37_0_2_1 cpu s).trace = Label.L_2TAG_PACKET_37_0_2 :: s.trace := rfl

theorem pow_L_2TAG_PACKET_48_0_2_1_trace (cpu : Cpu) (s : Machine) :
    (L_2TAG_PACKET_48_0_2_1 cpu s).trace = Label.L_2TAG_PACKET_48_0_2 :: s.trace := rfl

theorem pow_L_2TAG_PACKET_50_0_2_1_trace (cpu : Cpu) (s : Machine) :
    (L_2TAG_PACKET_50_0_2_1 cpu s).trace = Label.L_2TAG_PACKET_50_0_2 :: s.trace := rfl

theorem pow_L_2TAG_PACKET_49_0_2_1_trace (cpu : Cpu) (s : Machine) :
    (L_2TAG_PACKET_49_0_2_1 cpu s).trace = Label.L_2TAG_PACKET_49_0_2 :: s.trace := rfl

theorem pow_L_2TAG_PACKET_13_0_2_1_trace (cpu : Cpu) (s : Machine) :
    (L_2TAG_PACKET_13_0_2_1 cpu s).trace = Label.L_2TAG_PACKET_13_0_2 :: s.trace := by
  set_option maxRecDepth 8000 in
  simp only [
      ↓reduceIte, ↓fast_pow.pow_L_2TAG_PACKET_13_0_2_1_sem, ↓Machine.get_setx,
      ↓Machine.get_setg, ↓Machine.get_setstk, ↓Machine.get_enter, ↓Machine.get_setFlags,
      ↓Machine.trace_set, ↓Machine.get_ite, ↓Machine.trace_ite, ↓Machine.obs_eq_get,
      ↓Machine.flags_get, ↓Machine.flags_trace, ↓sem_get_1, ↓sem_get_2, ↓sem_get_3,
      ↓sem_get_4, ↓sem_trace_1, ↓sem_trace_2, ↓sem_trace_3, ↓sem_trace_4, ↓load_const,
      cc_iff, ea, and_imm, and_imm_left, ilog2_lit, or_eq_zero, or_mod32, or_lt_2p31,
      Nat.mod_mod, Nat.zero_or, Nat.or_zero, Nat.sub_zero, Nat.add_mod_right, lane_eq,
      Machine.io_eq_get, Nat.xor_self, Loc.x.injEq, Loc.g.injEq, Loc.m.injEq,
      Bool.toNat_eq_zero, Bool.toNat_eq_one, Nat.reducePow, Nat.reduceMul, Nat.reduceMod,
      Nat.reduceAdd, Nat.reduceSub, Nat.reduceDiv, Nat.reduceEqDiff, Nat.reduceLTLE,
      Nat.reduceLeDiff, Nat.reduceLT, Nat.reduceGT, Nat.reduceOr, Nat.reduceXor,
      reduceCtorEq, Bool.not_eq_true', Bool.not_eq_true, decide_eq_true_eq,
      decide_eq_false_iff_not, Bool.and_eq_true, Bool.or_eq_true, bne_iff_ne, beq_iff_eq,
      ne_eq, Bool.not_eq_false', Bool.not_eq_false, decide_not, not_not,
      Bool.decide_eq_true, Bool.false_eq_true, Bool.true_eq_false, not_false_eq_true,
      not_true_eq_false, and_true, true_and, and_false, false_and, or_true, true_or,
      or_false, false_or, not_true, not_false_iff, iff_self, true_iff, iff_true, false_iff,
      iff_false, ite_self, decide_eq_decide, decide_False, decide_True, Bool.not_true,
      Bool.not_false]

theorem pow_L_2TAG_PACKET_13_0_2_2_trace (cpu : Cpu) (s : Machine) :
    (L_2TAG_PACKET_13_0_2_2 cpu s).trace = s.trace := rfl

theorem pow_L_2TAG_PACKET_13_0_2_3_trace (cpu : Cpu) (s : Machine) :
    (L_2TAG_PACKET_13_0_2_3 cpu s).trace = s.trace := by
  set_option maxRecDepth 8000 in
  simp only [
      ↓reduceIte, ↓fast_pow.pow_L_2TAG_PACKET_13_0_2_3_sem, ↓Machine.get_setx,
      ↓Machine.get_setg, ↓Machine.get_setstk, ↓Machine.get_enter, ↓Machine.get_setFlags,
      ↓Machine.trace_set, ↓Machine.get_ite, ↓Machine.trace_ite, ↓Machine.obs_eq_get,
      ↓Machine.flags_get, ↓Machine.flags_trace, ↓sem_get_1, ↓sem_get_2, ↓sem_get_3,
      ↓sem_get_4, ↓sem_trace_1, ↓sem_trace_2, ↓sem_trace_3, ↓sem_trace_4, ↓load_const,
      cc_iff, ea, and_imm, and_imm_left, ilog2_lit, or_eq_zero, or_mod32, or_lt_2p31,
      Nat.mod_mod, Nat.zero_or, Nat.or_zero, Nat.sub_zero, Nat.add_mod_right, lane_eq,
      Machine.io_eq_get, Nat.xor_self, Loc.x.injEq, Loc.g.injEq, Loc.m.injEq,
      Bool.toNat_eq_zero, Bool.toNat_eq_one, Nat.reducePow, Nat.reduceMul, Nat.reduceMod,
      Nat.reduceAdd, Nat.reduceSub, Nat.reduceDiv, Nat.reduceEqDiff, Nat.reduceLTLE,
      Nat.reduceLeDiff, Nat.reduceLT, Nat.reduceGT, Nat.reduceOr, Nat.reduceXor,
      reduceCtorEq, Bool.not_eq_true', Bool.not_eq_true, decide_eq_true_eq,
      decide_eq_false_iff_not, Bool.and_eq_true, Bool.or_eq_true, bne_iff_ne, beq_iff_eq,
      ne_eq, Bool.not_eq_false', Bool.not_eq_false, decide_not, not_not,
      Bool.decide_eq_true, Bool.false_eq_true, Bool.true_eq_false, not_false_eq_true,
      not_true_eq_false, and_true, true_and, and_false, false_and, or_true, true_or,
      or_false, false_or, not_true, not_false_iff, iff_self, true_iff, iff_true, false_iff,
      iff_false, ite_self, decide_eq_decide, decide_False, decide_True, Bool.not_true,
      Bool.not_false]

theorem pow_L_2TAG_PACKET_14_0_2_1_trace (cpu : Cpu) (s : Machine) :
    (L_2TAG_PACKET_14_0_2_1 cpu s).trace = Label.L_2TAG_PACKET_14_0_2 :: s.trace := rfl

theorem pow_L_2TAG_PACKET_55_0_2_1_trace (cpu : Cpu) (s : Machine) :
    (L_2TAG_PACKET_55_0_2_1 cpu s).trace = Label.L_2TAG_PACKET_55_0_2 :: s.trace := rfl

theorem pow_L_2TAG_PACKET_54_0_2_1_trace (cpu : Cpu) (s : Machine) :
    (L_2TAG_PACKET_54_0_2_1 cpu s).trace = Label.L_2TAG_PACKET_54_0_2 :: s.trace := rfl

theorem pow_L_2TAG_PACKET_54_0_2_2_trace (cpu : Cpu) (s : Machine) :
    (L_2TAG_PACKET_54_0_2_2 cpu s).trace = s.trace := rfl

theorem pow_L_2TAG_PACKET_53_0_2_1_trace (cpu : Cpu) (s : Machine) :
    (L_2TAG_PACKET_53_0_2_1 cpu s).trace = Label.L_2TAG_PACKET_53_0_2 :: s.trace := rfl

theorem pow_L_2TAG_PACKET_53_0_2_2_trace (cpu : Cpu) (s : Machine) :
    (L_2TAG_PACKET_53_0_2_2 cpu s).trace = s.trace := rfl

theorem pow_L_2TAG_PACKET_45_0_2_1_trace (cpu : Cpu) (s : Machine) :
    (L_2TAG_PACKET_45_0_2_1 cpu s).trace = Label.L_2TAG_PACKET_45_0_2 :: s.trace := rfl

theorem pow_L_2TAG_PACKET_45_0_2_2_trace (cpu : Cpu) (s : Machine) :
    (L_2TAG_PACKET_45_0_2_2 cpu s).trace = s.trace := rfl

theorem pow_L_2TAG_PACKET_46_0_2_1_trace (cpu : Cpu) (s : Machine) :
    (L_2TAG_PACKET_46_0_2_1 cpu s).trace = Label.L_2TAG_PACKET_46_0_2 :: s.trace := rfl

theorem pow_L_2TAG_PACKET_46_0_2_2_trace (cpu : Cpu) (s : Machine) :
    (L_2TAG_PACKET_46_0_2_2 cpu s).trace = s.trace := rfl

theorem pow_L_2TAG_PACKET_47_0_2_1_trace (cpu : Cpu) (s : Machine) :
    (L_2TAG_PACKET_47_0_2_1 cpu s).trace = Label.L_2TAG_PACKET_47_0_2 :: s.trace := by
  set_option maxRecDepth 8000 in
  simp only [
      ↓reduceIte, ↓fast_pow.pow_L_2TAG_PACKET_47_0_2_1_sem, ↓Machine.get_setx,
      ↓Machine.get_setg, ↓Machine.get_setstk, ↓Machine.get_enter, ↓Machine.get_setFlags,
      ↓Machine.trace_set, ↓Machine.get_ite, ↓Machine.trace_ite, ↓Machine.obs_eq_get,
      ↓Machine.flags_get, ↓Machine.flags_trace, ↓sem_get_1, ↓sem_get_2, ↓sem_get_3,
      ↓sem_get_4, ↓sem_trace_1, ↓sem_trace_2, ↓sem_trace_3, ↓sem_trace_4, ↓load_const,
      cc_iff, ea, and_imm, and_imm_left, ilog2_lit, or_eq_zero, or_mod32, or_lt_2p31,
      Nat.mod_mod, Nat.zero_or, Nat.or_zero, Nat.sub_zero, Nat.add_mod_right, lane_eq,
      Machine.io_eq_get, Nat.xor_self, Loc.x.injEq, Loc.g.injEq, Loc.m.injEq,
      Bool.toNat_eq_zero, Bool.toNat_eq_one, Nat.reducePow, Nat.reduceMul, Nat.reduceMod,
      Nat.reduceAdd, Nat.reduceSub, Nat.reduceDiv, Nat.reduceEqDiff, Nat.reduceLTLE,
      Nat.reduceLeDiff, Nat.reduceLT, Nat.reduceGT, Nat.reduceOr, Nat.reduceXor,
      reduceCtorEq, Bool.not_eq_true', Bool.not_eq_true, decide_eq_true_eq,
      decide_eq_false_iff_not, Bool.and_eq_true, Bool.or_eq_true, bne_iff_ne, beq_iff_eq,
      ne_eq, Bool.not_eq_false', Bool.not_eq_false, decide_not, not_not,
      Bool.decide_eq_true, Bool.false_eq_true, Bool.true_eq_false, not_false_eq_true,
      not_true_eq_false, and_true, true_and, and_false, false_and, or_true, true_or,
      or_false, false_or, not_true, not_false_iff, iff_self, true_iff, iff_true, false_iff,
      iff_false, ite_self, decide_eq_decide, decide_False, decide_True, Bool.not_true,
      Bool.not_false]

theorem pow_L_2TAG_PACKET_12_0_2_1_trace (cpu : Cpu) (s : Machine) :
    (L_2TAG_PACKET_12_0_2_1 cpu s).trace = Label.L_2TAG_PACKET_12_0_2 :: s.trace := rfl

theorem pow_L_2TAG_PACKET_12_0_2_2_trace (cpu : Cpu) (s : Machine) :
    (L_2TAG_PACKET_12_0_2_2 cpu s).trace = s.trace := rfl

theorem pow_L_2TAG_PACKET_12_0_2_3_trace (cpu : Cpu) (s : Machine) :
    (L_2TAG_PACKET_12_0_2_3 cpu s).trace = s.trace := rfl

theorem pow_L_2TAG_PACKET_38_0_2_1_trace (cpu : Cpu) (s : Machine) :
    (L_2TAG_PACKET_38_0_2_1 cpu s).trace = Label.L_2TAG_PACKET_38_0_2 :: s.trace := rfl

theorem pow_L_2TAG_PACKET_11_0_2_1_trace (cpu : Cpu) (s : Machine) :
    (L_2TAG_PACKET_11_0_2_1 cpu s).trace = Label.L_2TAG_PACKET_11_0_2 :: s.trace := rfl

theorem pow_L_2TAG_PACKET_11_0_2_2_trace (cpu : Cpu) (s : Machine) :
    (L_2TAG_PACKET_11_0_2_2 cpu s).trace = s.trace := by
  set_option maxRecDepth 8000 in
  simp only [
      ↓reduceIte, ↓fast_pow.pow_L_2TAG_PACKET_11_0_2_2_sem, ↓Machine.get_setx,
      ↓Machine.get_setg, ↓Machine.get_setstk, ↓Machine.get_enter, ↓Machine.get_setFlags,
      ↓Machine.trace_set, ↓Machine.get_ite, ↓Machine.trace_ite, ↓Machine.obs_eq_get,
      ↓Machine.flags_get, ↓Machine.flags_trace, ↓sem_get_1, ↓sem_get_2, ↓sem_get_3,
      ↓sem_get_4, ↓sem_trace_1, ↓sem_trace_2, ↓sem_trace_3, ↓sem_trace_4, ↓load_const,
      cc_iff, ea, and_imm, and_imm_left, ilog2_lit, or_eq_zero, or_mod32, or_lt_2p31,
      Nat.mod_mod, Nat.zero_or, Nat.or_zero, Nat.sub_zero, Nat.add_mod_right, lane_eq,
      Machine.io_eq_get, Nat.xor_self, Loc.x.injEq, Loc.g.injEq, Loc.m.injEq,
      Bool.toNat_eq_zero, Bool.toNat_eq_one, Nat.reducePow, Nat.reduceMul, Nat.reduceMod,
      Nat.reduceAdd, Nat.reduceSub, Nat.reduceDiv, Nat.reduceEqDiff, Nat.reduceLTLE,
      Nat.reduceLeDiff, Nat.reduceLT, Nat.reduceGT, Nat.reduceOr, Nat.reduceXor,
      reduceCtorEq, Bool.not_eq_true', Bool.not_eq_true, decide_eq_true_eq,
      decide_eq_false_iff_not, Bool.and_eq_true, Bool.or_eq_true, bne_iff_ne, beq_iff_eq,
      ne_eq, Bool.not_eq_false', Bool.not_eq_false, decide_not, not_not,
      Bool.decide_eq_true, Bool.false_eq_true, Bool.true_eq_false, not_false_eq_true,
      not_true_eq_false, and_true, true_and, and_false, false_and, or_true, true_or,
      or_false, false_or, not_true, not_false_iff, iff_self, true_iff, iff_true, false_iff,
      iff_false, ite_self, decide_eq_decide, decide_False, decide_True, Bool.not_true,
      Bool.not_false]

theorem pow_L_2TAG_PACKET_5_0_2_1_trace (cpu : Cpu) (s : Machine) :
    (L_2TAG_PACKET_5_0_2_1 cpu s).trace = Label.L_2TAG_PACKET_5_0_2 :: s.trace := rfl

theorem pow_L_2TAG_PACKET_5_0_2_2_trace (cpu : Cpu) (s : Machine) :
    (L_2TAG_PACKET_5_0_2_2 cpu s).trace = s.trace := rfl

theorem pow_L_2TAG_PACKET_5_0_2_3_trace (cpu : Cpu) (s : Machine) :
    (L_2TAG_PACKET_5_0_2_3 cpu s).trace = s.trace := by
  set_option maxRecDepth 8000 in
  simp only [
      ↓reduceIte, ↓fast_pow.pow_L_2TAG_PACKET_5_0_2_3_sem, ↓Machine.get_setx,
      ↓Machine.get_setg, ↓Machine.get_setstk, ↓Machine.get_enter, ↓Machine.get_setFlags,
      ↓Machine.trace_set, ↓Machine.get_ite, ↓Machine.trace_ite, ↓Machine.obs_eq_get,
      ↓Machine.flags_get, ↓Machine.flags_trace, ↓sem_get_1, ↓sem_get_2, ↓sem_get_3,
      ↓sem_get_4, ↓sem_trace_1, ↓sem_trace_2, ↓sem_trace_3, ↓sem_trace_4, ↓load_const,
      cc_iff, ea, and_imm, and_imm_left, ilog2_lit, or_eq_zero, or_mod32, or_lt_2p31,
      Nat.mod_mod, Nat.zero_or, Nat.or_zero, Nat.sub_zero, Nat.add_mod_right, lane_eq,
      Machine.io_eq_get, Nat.xor_self, Loc.x.injEq, Loc.g.injEq, Loc.m.injEq,
      Bool.toNat_eq_zero, Bool.toNat_eq_one, Nat.reducePow, Nat.reduceMul, Nat.reduceMod,
      Nat.reduceAdd, Nat.reduceSub, Nat.reduceDiv, Nat.reduceEqDiff, Nat.reduceLTLE,
      Nat.reduceLeDiff, Nat.reduceLT, Nat.reduceGT, Nat.reduceOr, Nat.reduceXor,
      reduceCtorEq, Bool.not_eq_true', Bool.not_eq_true, decide_eq_true_eq,
      decide_eq_false_iff_not, Bool.and_eq_true, Bool.or_eq_true, bne_iff_ne, beq_iff_eq,
      ne_eq, Bool.not_eq_false', Bool.not_eq_false, decide_not, not_not,
      Bool.decide_eq_true, Bool.false_eq_true, Bool.true_eq_false, not_false_eq_true,
      not_true_eq_false, and_true, true_and, and_false, false_and, or_true, true_or,
      or_false, false_or, not_true, not_false_iff, iff_self, true_iff, iff_true, false_iff,
      iff_false, ite_self, decide_eq_decide, decide_False, decide_True, Bool.not_true,
      Bool.not_false]

theorem pow_L_2TAG_PACKET_5_0_2_4_trace (cpu : Cpu) (s : Machine) :
    (L_2TAG_PACKET_5_0_2_4 cpu s).trace = s.trace := by
  set_option maxRecDepth 8000 in
  simp only [
      ↓reduceIte, ↓fast_pow.pow_L_2TAG_PACKET_5_0_2_4_sem, ↓Machine.get_setx,
      ↓Machine.get_setg, ↓Machine.get_setstk, ↓Machine.get_enter, ↓Machine.get_setFlags,
      ↓Machine.trace_set, ↓Machine.get_ite, ↓Machine.trace_ite, ↓Machine.obs_eq_get,
      ↓Machine.flags_get, ↓Machine.flags_trace, ↓sem_get_1, ↓sem_get_2, ↓sem_get_3,
      ↓sem_get_4, ↓sem_trace_1, ↓sem_trace_2, ↓sem_trace_3, ↓sem_trace_4, ↓load_const,
      cc_iff, ea, and_imm, and_imm_left, ilog2_lit, or_eq_zero, or_mod32, or_lt_2p31,
      Nat.mod_mod, Nat.zero_or, Nat.or_zero, Nat.sub_zero, Nat.add_mod_right, lane_eq,
      Machine.io_eq_get, Nat.xor_self, Loc.x.injEq, Loc.g.injEq, Loc.m.injEq,
      Bool.toNat_eq_zero, Bool.toNat_eq_one, Nat.reducePow, Nat.reduceMul, Nat.reduceMod,
      Nat.reduceAdd, Nat.reduceSub, Nat.reduceDiv, Nat.reduceEqDiff, Nat.reduceLTLE,
      Nat.reduceLeDiff, Nat.reduceLT, Nat.reduceGT, Nat.reduceOr, Nat.reduceXor,
      reduceCtorEq, Bool.not_eq_true', Bool.not_eq_true, decide_eq_true_eq,
      decide_eq_false_iff_not, Bool.and_eq_true, Bool.or_eq_true, bne_iff_ne, beq_iff_eq,
      ne_eq, Bool.not_eq_false', Bool.not_eq_false, decide_not, not_not,
      Bool.decide_eq_true, Bool.false_eq_true, Bool.true_eq_false, not_false_eq_true,
      not_true_eq_false, and_true, true_and, and_false, false_and, or_true, true_or,
      or_false, false_or, not_true, not_false_iff, iff_self, true_iff, iff_true, false_iff,
      iff_false, ite_self, decide_eq_decide, decide_False, decide_True, Bool.not_true,
      Bool.not_false]

theorem pow_L_2TAG_PACKET_5_0_2_5_trace (cpu : Cpu) (s : Machine) :
    (L_2TAG_PACKET_5_0_2_5 cpu s).trace = s.trace := rfl

theorem pow_L_2TAG_PACKET_5_0_2_6_trace (cpu : Cpu) (s : Machine) :
    (L_2TAG_PACKET_5_0_2_6 cpu s).trace = s.trace := rfl

theorem pow_L_2TAG_PACKET_4_0_2_1_trace (cpu : Cpu) (s : Machine) :
    (L_2TAG_PACKET_4_0_2_1 cpu s).trace = Label.L_2TAG_PACKET_4_0_2 :: s.trace := by
  set_option maxRecDepth 8000 in
  simp only [
      ↓reduceIte, ↓fast_pow.pow_L_2TAG_PACKET_4_0_2_1_sem, ↓Machine.get_setx,
      ↓Machine.get_setg, ↓Machine.get_setstk, ↓Machine.get_enter, ↓Machine.get_setFlags,
      ↓Machine.trace_set, ↓Machine.get_ite, ↓Machine.trace_ite, ↓Machine.obs_eq_get,
      ↓Machine.flags_get, ↓Machine.flags_trace, ↓sem_get_1, ↓sem_get_2, ↓sem_get_3,
      ↓sem_get_4, ↓sem_trace_1, ↓sem_trace_2, ↓sem_trace_3, ↓sem_trace_4, ↓load_const,
      cc_iff, ea, and_imm, and_imm_left, ilog2_lit, or_eq_zero, or_mod32, or_lt_2p31,
      Nat.mod_mod, Nat.zero_or, Nat.or_zero, Nat.sub_zero, Nat.add_mod_right, lane_eq,
      Machine.io_eq_get, Nat.xor_self, Loc.x.injEq, Loc.g.injEq, Loc.m.injEq,
      Bool.toNat_eq_zero, Bool.toNat_eq_one, Nat.reducePow, Nat.reduceMul, Nat.reduceMod,
      Nat.reduceAdd, Nat.reduceSub, Nat.reduceDiv, Nat.reduceEqDiff, Nat.reduceLTLE,
      Nat.reduceLeDiff, Nat.reduceLT, Nat.reduceGT, Nat.reduceOr, Nat.reduceXor,
      reduceCtorEq, Bool.not_eq_true', Bool.not_eq_true, decide_eq_true_eq,
      decide_eq_false_iff_not, Bool.and_eq_true, Bool.or_eq_true, bne_iff_ne, beq_iff_eq,
      ne_eq, Bool.not_eq_false', Bool.not_eq_false, decide_not, not_not,
      Bool.decide_eq_true, Bool.false_eq_true, Bool.true_eq_false, not_false_eq_true,
      not_true_eq_false, and_true, true_and, and_false, false_and, or_true, true_or,
      or_false, false_or, not_true, not_false_iff, iff_self, true_iff, iff_true, false_iff,
      iff_false, ite_self, decide_eq_decide, decide_False, decide_True, Bool.not_true,
      Bool.not_false]

theorem pow_L_2TAG_PACKET_4_0_2_2_trace (cpu : Cpu) (s : Machine) :
    (L_2TAG_PACKET_4_0_2_2 cpu s).trace = s.trace := by
  set_option maxRecDepth 8000 in
  simp only [
      ↓reduceIte, ↓fast_pow.pow_L_2TAG_PACKET_4_0_2_2_sem, ↓Machine.get_setx,
      ↓Machine.get_setg, ↓Machine.get_setstk, ↓Machine.get_enter, ↓Machine.get_setFlags,
      ↓Machine.trace_set, ↓Machine.get_ite, ↓Machine.trace_ite, ↓Machine.obs_eq_get,
      ↓Machine.flags_get, ↓Machine.flags_trace, ↓sem_get_1, ↓sem_get_2, ↓sem_get_3,
      ↓sem_get_4, ↓sem_trace_1, ↓sem_trace_2, ↓sem_trace_3, ↓sem_trace_4, ↓load_const,
      cc_iff, ea, and_imm, and_imm_left, ilog2_lit, or_eq_zero, or_mod32, or_lt_2p31,
      Nat.mod_mod, Nat.zero_or, Nat.or_zero, Nat.sub_zero, Nat.add_mod_right, lane_eq,
      Machine.io_eq_get, Nat.xor_self, Loc.x.injEq, Loc.g.injEq, Loc.m.injEq,
      Bool.toNat_eq_zero, Bool.toNat_eq_one, Nat.reducePow, Nat.reduceMul, Nat.reduceMod,
      Nat.reduceAdd, Nat.reduceSub, Nat.reduceDiv, Nat.reduceEqDiff, Nat.reduceLTLE,
      Nat.reduceLeDiff, Nat.reduceLT, Nat.reduceGT, Nat.reduceOr, Nat.reduceXor,
      reduceCtorEq, Bool.not_eq_true', Bool.not_eq_true, decide_eq_true_eq,
      decide_eq_false_iff_not, Bool.and_eq_true, Bool.or_eq_true, bne_iff_ne, beq_iff_eq,
      ne_eq, Bool.not_eq_false', Bool.not_eq_false, decide_not, not_not,
      Bool.decide_eq_true, Bool.false_eq_true, Bool.true_eq_false, not_false_eq_true,
      not_true_eq_false, and_true, true_and, and_false, false_and, or_true, true_or,
      or_false, false_or, not_true, not_false_iff, iff_self, true_iff, iff_true, false_iff,
      iff_false, ite_self, decide_eq_decide, decide_False, decide_True, Bool.not_true,
      Bool.not_false]

theorem pow_L_2TAG_PACKET_8_0_2_1_trace (cpu : Cpu) (s : Machine) :
    (L_2TAG_PACKET_8_0_2_1 cpu s).trace = Label.L_2TAG_PACKET_8_0_2 :: s.trace := rfl

theorem pow_L_2TAG_PACKET_8_0_2_2_trace (cpu : Cpu) (s : Machine) :
    (L_2TAG_PACKET_8_0_2_2 cpu s).trace = s.trace := by
  set_option maxRecDepth 8000 in
  simp only [
      ↓reduceIte, ↓fast_pow.pow_L_2TAG_PACKET_8_0_2_2_sem, ↓Machine.get_setx,
      ↓Machine.get_setg, ↓Machine.get_setstk, ↓Machine.get_enter, ↓Machine.get_setFlags,
      ↓Machine.trace_set, ↓Machine.get_ite, ↓Machine.trace_ite, ↓Machine.obs_eq_get,
      ↓Machine.flags_get, ↓Machine.flags_trace, ↓sem_get_1, ↓sem_get_2, ↓sem_get_3,
      ↓sem_get_4, ↓sem_trace_1, ↓sem_trace_2, ↓sem_trace_3, ↓sem_trace_4, ↓load_const,
      cc_iff, ea, and_imm, and_imm_left, ilog2_lit, or_eq_zero, or_mod32, or_lt_2p31,
      Nat.mod_mod, Nat.zero_or, Nat.or_zero, Nat.sub_zero, Nat.add_mod_right, lane_eq,
      Machine.io_eq_get, Nat.xor_self, Loc.x.injEq, Loc.g.injEq, Loc.m.injEq,
      Bool.toNat_eq_zero, Bool.toNat_eq_one, Nat.reducePow, Nat.reduceMul, Nat.reduceMod,
      Nat.reduceAdd, Nat.reduceSub, Nat.reduceDiv, Nat.reduceEqDiff, Nat.reduceLTLE,
      Nat.reduceLeDiff, Nat.reduceLT, Nat.reduceGT, Nat.reduceOr, Nat.reduceXor,
      reduceCtorEq, Bool.not_eq_true', Bool.not_eq_true, decide_eq_true_eq,
      decide_eq_false_iff_not, Bool.and_eq_true, Bool.or_eq_true, bne_iff_ne, beq_iff_eq,
      ne_eq, Bool.not_eq_false', Bool.not_eq_false, decide_not, not_not,
      Bool.decide_eq_true, Bool.false_eq_true, Bool.true_eq_false, not_false_eq_true,
      not_true_eq_false, and_true, true_and, and_false, false_and, or_true, true_or,
      or_false, false_or, not_true, not_false_iff, iff_self, true_iff, iff_true, false_iff,
      iff_false, ite_self, decide_eq_decide, decide_False, decide_True, Bool.not_true,
      Bool.not_false]

theorem pow_L_2TAG_PACKET_51_0_2_1_trace (cpu : Cpu) (s : Machine) :
    (L_2TAG_PACKET_51_0_2_1 cpu s).trace = Label.L_2TAG_PACKET_51_0_2 :: s.trace := rfl

theorem pow_L_2TAG_PACKET_51_0_2_2_trace (cpu : Cpu) (s : Machine) :
    (L_2TAG_PACKET_51_0_2_2 cpu s).trace = s.trace := rfl

theorem pow_L_2TAG_PACKET_52_0_2_1_trace (cpu : Cpu) (s : Machine) :
    (L_2TAG_PACKET_52_0_2_1 cpu s).trace = Label.L_2TAG_PACKET_52_0_2 :: s.trace := rfl

theorem pow_L_2TAG_PACKET_3_0_2_1_trace (cpu : Cpu) (s : Machine) :
    (L_2TAG_PACKET_3_0_2_1 cpu s).trace = Label.L_2TAG_PACKET_3_0_2 :: s.trace := by
  set_option maxRecDepth 8000 in
  simp only [
      ↓reduceIte, ↓fast_pow.pow_L_2TAG_PACKET_3_0_2_1_sem, ↓Machine.get_setx,
      ↓Machine.get_setg, ↓Machine.get_setstk, ↓Machine.get_enter, ↓Machine.get_setFlags,
      ↓Machine.trace_set, ↓Machine.get_ite, ↓Machine.trace_ite, ↓Machine.obs_eq_get,
      ↓Machine.flags_get, ↓Machine.flags_trace, ↓sem_get_1, ↓sem_get_2, ↓sem_get_3,
      ↓sem_get_4, ↓sem_trace_1, ↓sem_trace_2, ↓sem_trace_3, ↓sem_trace_4, ↓load_const,
      cc_iff, ea, and_imm, and_imm_left, ilog2_lit, or_eq_zero, or_mod32, or_lt_2p31,
      Nat.mod_mod, Nat.zero_or, Nat.or_zero, Nat.sub_zero, Nat.add_mod_right, lane_eq,
      Machine.io_eq_get, Nat.xor_self, Loc.x.injEq, Loc.g.injEq, Loc.m.injEq,
      Bool.toNat_eq_zero, Bool.toNat_eq_one, Nat.reducePow, Nat.reduceMul, Nat.reduceMod,
      Nat.reduceAdd, Nat.reduceSub, Nat.reduceDiv, Nat.reduceEqDiff, Nat.reduceLTLE,
      Nat.reduceLeDiff, Nat.reduceLT, Nat.reduceGT, Nat.reduceOr, Nat.reduceXor,
      reduceCtorEq, Bool.not_eq_true', Bool.not_eq_true, decide_eq_true_eq,
      decide_eq_false_iff_not, Bool.and_eq_true, Bool.or_eq_true, bne_iff_ne, beq_iff_eq,
      ne_eq, Bool.not_eq_false', Bool.not_eq_false, decide_not, not_not,
      Bool.decide_eq_true, Bool.false_eq_true, Bool.true_eq_false, not_false_eq_true,
      not_true_eq_false, and_true, true_and, and_false, false_and, or_true, true_or,
      or_false, false_or, not_true, not_false_iff, iff_self, true_iff, iff_true, false_iff,
      iff_false, ite_self, decide_eq_decide, decide_False, decide_True, Bool.not_true,
      Bool.not_false]

theorem pow_L_2TAG_PACKET_2_0_2_1_trace (cpu : Cpu) (s : Machine) :
    (L_2TAG_PACKET_2_0_2_1 cpu s).trace = Label.L_2TAG_PACKET_2_0_2 :: s.trace := rfl

theorem pow_L_2TAG_PACKET_2_0_2_2_trace (cpu : Cpu) (s : Machine) :
    (L_2TAG_PACKET_2_0_2_2 cpu s).trace = s.trace := by
  set_option maxRecDepth 8000 in
  simp only [
      ↓reduceIte, ↓fast_pow.pow_L_2TAG_PACKET_2_0_2_2_sem, ↓Machine.get_setx,
      ↓Machine.get_setg, ↓Machine.get_setstk, ↓Machine.get_enter, ↓Machine.get_setFlags,
      ↓Machine.trace_set, ↓Machine.get_ite, ↓Machine.trace_ite, ↓Machine.obs_eq_get,
      ↓Machine.flags_get, ↓Machine.flags_trace, ↓sem_get_1, ↓sem_get_2, ↓sem_get_3,
      ↓sem_get_4, ↓sem_trace_1, ↓sem_trace_2, ↓sem_trace_3, ↓sem_trace_4, ↓load_const,
      cc_iff, ea, and_imm, and_imm_left, ilog2_lit, or_eq_zero, or_mod32, or_lt_2p31,
      Nat.mod_mod, Nat.zero_or, Nat.or_zero, Nat.sub_zero, Nat.add_mod_right, lane_eq,
      Machine.io_eq_get, Nat.xor_self, Loc.x.injEq, Loc.g.injEq, Loc.m.injEq,
      Bool.toNat_eq_zero, Bool.toNat_eq_one, Nat.reducePow, Nat.reduceMul, Nat.reduceMod,
      Nat.reduceAdd, Nat.reduceSub, Nat.reduceDiv, Nat.reduceEqDiff, Nat.reduceLTLE,
      Nat.reduceLeDiff, Nat.reduceLT, Nat.reduceGT, Nat.reduceOr, Nat.reduceXor,
      reduceCtorEq, Bool.not_eq_true', Bool.not_eq_true, decide_eq_true_eq,
      decide_eq_false_iff_not, Bool.and_eq_true, Bool.or_eq_true, bne_iff_ne, beq_iff_eq,
      ne_eq, Bool.not_eq_false', Bool.not_eq_false, decide_not, not_not,
      Bool.decide_eq_true, Bool.false_eq_true, Bool.true_eq_false, not_false_eq_true,
      not_true_eq_false, and_true, true_and, and_false, false_and, or_true, true_or,
      or_false, false_or, not_true, not_false_iff, iff_self, true_iff, iff_true, false_iff,
      iff_false, ite_self, decide_eq_decide, decide_False, decide_True, Bool.not_true,
      Bool.not_false]

theorem pow_L_2TAG_PACKET_2_0_2_3_trace (cpu : Cpu) (s : Machine) :
    (L_2TAG_PACKET_2_0_2_3 cpu s).trace = s.trace := rfl

theorem pow_L_2TAG_PACKET_2_0_2_4_trace (cpu : Cpu) (s : Machine) :
    (L_2TAG_PACKET_2_0_2_4 cpu s).trace = s.trace := by
  set_option maxRecDepth 8000 in
  simp only [
      ↓reduceIte, ↓fast_pow.pow_L_2TAG_PACKET_2_0_2_4_sem, ↓Machine.get_setx,
      ↓Machine.get_setg, ↓Machine.get_setstk, ↓Machine.get_enter, ↓Machine.get_setFlags,
      ↓Machine.trace_set, ↓Machine.get_ite, ↓Machine.trace_ite, ↓Machine.obs_eq_get,
      ↓Machine.flags_get, ↓Machine.flags_trace, ↓sem_get_1, ↓sem_get_2, ↓sem_get_3,
      ↓sem_get_4, ↓sem_trace_1, ↓sem_trace_2, ↓sem_trace_3, ↓sem_trace_4, ↓load_const,
      cc_iff, ea, and_imm, and_imm_left, ilog2_lit, or_eq_zero, or_mod32, or_lt_2p31,
      Nat.mod_mod, Nat.zero_or, Nat.or_zero, Nat.sub_zero, Nat.add_mod_right, lane_eq,
      Machine.io_eq_get, Nat.xor_self, Loc.x.injEq, Loc.g.injEq, Loc.m.injEq,
      Bool.toNat_eq_zero, Bool.toNat_eq_one, Nat.reducePow, Nat.reduceMul, Nat.reduceMod,
      Nat.reduceAdd, Nat.reduceSub, Nat.reduceDiv, Nat.reduceEqDiff, Nat.reduceLTLE,
      Nat.reduceLeDiff, Nat.reduceLT, Nat.reduceGT, Nat.reduceOr, Nat.reduceXor,
      reduceCtorEq, Bool.not_eq_true', Bool.not_eq_true, decide_eq_true_eq,
      decide_eq_false_iff_not, Bool.and_eq_true, Bool.or_eq_true, bne_iff_ne, beq_iff_eq,
      ne_eq, Bool.not_eq_false', Bool.not_eq_false, decide_not, not_not,
      Bool.decide_eq_true, Bool.false_eq_true, Bool.true_eq_false, not_false_eq_true,
      not_true_eq_false, and_true, true_and, and_false, false_and, or_true, true_or,
      or_false, false_or, not_true, not_false_iff, iff_self, true_iff, iff_true, false_iff,
      iff_false, ite_self, decide_eq_decide, decide_False, decide_True, Bool.not_true,
      Bool.not_false]

theorem pow_L_2TAG_PACKET_2_0_2_5_trace (cpu : Cpu) (s : Machine) :
    (L_2TAG_PACKET_2_0_2_5 cpu s).trace = s.trace := by
  set_option maxRecDepth 8000 in
  simp only [
      ↓reduceIte, ↓fast_pow.pow_L_2TAG_PACKET_2_0_2_5_sem, ↓Machine.get_setx,
      ↓Machine.get_setg, ↓Machine.get_setstk, ↓Machine.get_enter, ↓Machine.get_setFlags,
      ↓Machine.trace_set, ↓Machine.get_ite, ↓Machine.trace_ite, ↓Machine.obs_eq_get,
      ↓Machine.flags_get, ↓Machine.flags_trace, ↓sem_get_1, ↓sem_get_2, ↓sem_get_3,
      ↓sem_get_4, ↓sem_trace_1, ↓sem_trace_2, ↓sem_trace_3, ↓sem_trace_4, ↓load_const,
      cc_iff, ea, and_imm, and_imm_left, ilog2_lit, or_eq_zero, or_mod32, or_lt_2p31,
      Nat.mod_mod, Nat.zero_or, Nat.or_zero, Nat.sub_zero, Nat.add_mod_right, lane_eq,
      Machine.io_eq_get, Nat.xor_self, Loc.x.injEq, Loc.g.injEq, Loc.m.injEq,
      Bool.toNat_eq_zero, Bool.toNat_eq_one, Nat.reducePow, Nat.reduceMul, Nat.reduceMod,
      Nat.reduceAdd, Nat.reduceSub, Nat.reduceDiv, Nat.reduceEqDiff, Nat.reduceLTLE,
      Nat.reduceLeDiff, Nat.reduceLT, Nat.reduceGT, Nat.reduceOr, Nat.reduceXor,
      reduceCtorEq, Bool.not_eq_true', Bool.not_eq_true, decide_eq_true_eq,
      decide_eq_false_iff_not, Bool.and_eq_true, Bool.or_eq_true, bne_iff_ne, beq_iff_eq,
      ne_eq, Bool.not_eq_false', Bool.not_eq_false, decide_not, not_not,
      Bool.decide_eq_true, Bool.false_eq_true, Bool.true_eq_false, not_false_eq_true,
      not_true_eq_false, and_true, true_and, and_false, false_and, or_true, true_or,
      or_false, false_or, not_true, not_false_iff, iff_self, true_iff, iff_true, false_iff,
      iff_false, ite_self, decide_eq_decide, decide_False, decide_True, Bool.not_true,
      Bool.not_false]

theorem pow_L_2TAG_PACKET_2_0_2_6_trace (cpu : Cpu) (s : Machine) :
    (L_2TAG_PACKET_2_0_2_6 cpu s).trace = s.trace := rfl

theorem pow_L_2TAG_PACKET_2_0_2_7_trace (cpu : Cpu) (s : Machine) :
    (L_2TAG_PACKET_2_0_2_7 cpu s).trace = s.trace := rfl

theorem pow_L_2TAG_PACKET_1_0_2_1_trace (cpu : Cpu) (s : Machine) :
    (L_2TAG_PACKET_1_0_2_1 cpu s).trace = Label.L_2TAG_PACKET_1_0_2 :: s.trace := by
  set_option maxRecDepth 8000 in
  simp only [
      ↓reduceIte, ↓fast_pow.pow_L_2TAG_PACKET_1_0_2_1_sem, ↓Machine.get_setx,
      ↓Machine.get_setg, ↓Machine.get_setstk, ↓Machine.get_enter, ↓Machine.get_setFlags,
      ↓Machine.trace_set, ↓Machine.get_ite, ↓Machine.trace_ite, ↓Machine.obs_eq_get,
      ↓Machine.flags_get, ↓Machine.flags_trace, ↓sem_get_1, ↓sem_get_2, ↓sem_get_3,
      ↓sem_get_4, ↓sem_trace_1, ↓sem_trace_2, ↓sem_trace_3, ↓sem_trace_4, ↓load_const,
      cc_iff, ea, and_imm, and_imm_left, ilog2_lit, or_eq_zero, or_mod32, or_lt_2p31,
      Nat.mod_mod, Nat.zero_or, Nat.or_zero, Nat.sub_zero, Nat.add_mod_right, lane_eq,
      Machine.io_eq_get, Nat.xor_self, Loc.x.injEq, Loc.g.injEq, Loc.m.injEq,
      Bool.toNat_eq_zero, Bool.toNat_eq_one, Nat.reducePow, Nat.reduceMul, Nat.reduceMod,
      Nat.reduceAdd, Nat.reduceSub, Nat.reduceDiv, Nat.reduceEqDiff, Nat.reduceLTLE,
      Nat.reduceLeDiff, Nat.reduceLT, Nat.reduceGT, Nat.reduceOr, Nat.reduceXor,
      reduceCtorEq, Bool.not_eq_true', Bool.not_eq_true, decide_eq_true_eq,
      decide_eq_false_iff_not, Bool.and_eq_true, Bool.or_eq_true, bne_iff_ne, beq_iff_eq,
      ne_eq, Bool.not_eq_false', Bool.not_eq_false, decide_not, not_not,
      Bool.decide_eq_true, Bool.false_eq_true, Bool.true_eq_false, not_false_eq_true,
      not_true_eq_false, and_true, true_and, and_false, false_and, or_true, true_or,
      or_false, false_or, not_true, not_false_iff, iff_self, true_iff, iff_true, false_iff,
      iff_false, ite_self, decide_eq_decide, decide_False, decide_True, Bool.not_true,
      Bool.not_false]

theorem pow_L_2TAG_PACKET_1_0_2_2_trace (cpu : Cpu) (s : Machine) :
    (L_2TAG_PACKET_1_0_2_2 cpu s).trace = s.trace := rfl

theorem pow_L_2TAG_PACKET_35_0_2_1_trace (cpu : Cpu) (s : Machine) :
    (L_2TAG_PACKET_35_0_2_1 cpu s).trace = Label.L_2TAG_PACKET_35_0_2 :: s.trace := rfl

theorem pow_L_2TAG_PACKET_35_0_2_2_trace (cpu : Cpu) (s : Machine) :
    (L_2TAG_PACKET_35_0_2_2 cpu s).trace = s.trace := by
  set_option maxRecDepth 8000 in
  simp only [
      ↓reduceIte, ↓fast_pow.pow_L_2TAG_PACKET_35_0_2_2_sem, ↓Machine.get_setx,
      ↓Machine.get_setg, ↓Machine.get_setstk, ↓Machine.get_enter, ↓Machine.get_setFlags,
      ↓Machine.trace_set, ↓Machine.get_ite, ↓Machine.trace_ite, ↓Machine.obs_eq_get,
      ↓Machine.flags_get, ↓Machine.flags_trace, ↓sem_get_1, ↓sem_get_2, ↓sem_get_3,
      ↓sem_get_4, ↓sem_trace_1, ↓sem_trace_2, ↓sem_trace_3, ↓sem_trace_4, ↓load_const,
      cc_iff, ea, and_imm, and_imm_left, ilog2_lit, or_eq_zero, or_mod32, or_lt_2p31,
      Nat.mod_mod, Nat.zero_or, Nat.or_zero, Nat.sub_zero, Nat.add_mod_right, lane_eq,
      Machine.io_eq_get, Nat.xor_self, Loc.x.injEq, Loc.g.injEq, Loc.m.injEq,
      Bool.toNat_eq_zero, Bool.toNat_eq_one, Nat.reducePow, Nat.reduceMul, Nat.reduceMod,
      Nat.reduceAdd, Nat.reduceSub, Nat.reduceDiv, Nat.reduceEqDiff, Nat.reduceLTLE,
      Nat.reduceLeDiff, Nat.reduceLT, Nat.reduceGT, Nat.reduceOr, Nat.reduceXor,
      reduceCtorEq, Bool.not_eq_true', Bool.not_eq_true, decide_eq_true_eq,
      decide_eq_false_iff_not, Bool.and_eq_true, Bool.or_eq_true, bne_iff_ne, beq_iff_eq,
      ne_eq, Bool.not_eq_false', Bool.not_eq_false, decide_not, not_not,
      Bool.decide_eq_true, Bool.false_eq_true, Bool.true_eq_false, not_false_eq_true,
      not_true_eq_false, and_true, true_and, and_false, false_and, or_true, true_or,
      or_false, false_or, not_true, not_false_iff, iff_self, true_iff, iff_true, false_iff,
      iff_false, ite_self, decide_eq_decide, decide_False, decide_True, Bool.not_true,
      Bool.not_false]

theorem pow_L_2TAG_PACKET_34_0_2_1_trace (cpu : Cpu) (s : Machine) :
    (L_2TAG_PACKET_34_0_2_1 cpu s).trace = Label.L_2TAG_PACKET_34_0_2 :: s.trace := rfl

theorem pow_L_2TAG_PACKET_10_0_2_1_trace (cpu : Cpu) (s : Machine) :
    (L_2TAG_PACKET_10_0_2_1 cpu s).trace = Label.L_2TAG_PACKET_10_0_2 :: s.trace := rfl

theorem pow_L_2TAG_PACKET_10_0_2_2_trace (cpu : Cpu) (s : Machine) :
    (L_2TAG_PACKET_10_0_2_2 cpu s).trace = s.trace := by
  set_option maxRecDepth 8000 in
  simp only [
      ↓reduceIte, ↓fast_pow.pow_L_2TAG_PACKET_10_0_2_2_sem, ↓Machine.get_setx,
      ↓Machine.get_setg, ↓Machine.get_setstk, ↓Machine.get_enter, ↓Machine.get_setFlags,
      ↓Machine.trace_set, ↓Machine.get_ite, ↓Machine.trace_ite, ↓Machine.obs_eq_get,
      ↓Machine.flags_get, ↓Machine.flags_trace, ↓sem_get_1, ↓sem_get_2, ↓sem_get_3,
      ↓sem_get_4, ↓sem_trace_1, ↓sem_trace_2, ↓sem_trace_3, ↓sem_trace_4, ↓load_const,
      cc_iff, ea, and_imm, and_imm_left, ilog2_lit, or_eq_zero, or_mod32, or_lt_2p31,
      Nat.mod_mod, Nat.zero_or, Nat.or_zero, Nat.sub_zero, Nat.add_mod_right, lane_eq,
      Machine.io_eq_get, Nat.xor_self, Loc.x.injEq, Loc.g.injEq, Loc.m.injEq,
      Bool.toNat_eq_zero, Bool.toNat_eq_one, Nat.reducePow, Nat.reduceMul, Nat.reduceMod,
      Nat.reduceAdd, Nat.reduceSub, Nat.reduceDiv, Nat.reduceEqDiff, Nat.reduceLTLE,
      Nat.reduceLeDiff, Nat.reduceLT, Nat.reduceGT, Nat.reduceOr, Nat.reduceXor,
      reduceCtorEq, Bool.not_eq_true', Bool.not_eq_true, decide_eq_true_eq,
      decide_eq_false_iff_not, Bool.and_eq_true, Bool.or_eq_true, bne_iff_ne, beq_iff_eq,
      ne_eq, Bool.not_eq_false', Bool.not_eq_false, decide_not, not_not,
      Bool.decide_eq_true, Bool.false_eq_true, Bool.true_eq_false, not_false_eq_true,
      not_true_eq_false, and_true, true_and, and_false, false_and, or_true, true_or,
      or_false, false_or, not_true, not_false_iff, iff_self, true_iff, iff_true, false_iff,
      iff_false, ite_self, decide_eq_decide, decide_False, decide_True, Bool.not_true,
      Bool.not_false]

theorem pow_L_2TAG_PACKET_36_0_2_1_trace (cpu : Cpu) (s : Machine) :
    (L_2TAG_PACKET_36_0_2_1 cpu s).trace = Label.L_2TAG_PACKET_36_0_2 :: s.trace := rfl

theorem pow_L_2TAG_PACKET_36_0_2_2_trace (cpu : Cpu) (s : Machine) :
    (L_2TAG_PACKET_36_0_2_2 cpu s).trace = s.trace := by
  set_option maxRecDepth 8000 in
  simp only [
      ↓reduceIte, ↓fast_pow.pow_L_2TAG_PACKET_36_0_2_2_sem, ↓Machine.get_setx,
      ↓Machine.get_setg, ↓Machine.get_setstk, ↓Machine.get_enter, ↓Machine.get_setFlags,
      ↓Machine.trace_set, ↓Machine.get_ite, ↓Machine.trace_ite, ↓Machine.obs_eq_get,
      ↓Machine.flags_get, ↓Machine.flags_trace, ↓sem_get_1, ↓sem_get_2, ↓sem_get_3,
      ↓sem_get_4, ↓sem_trace_1, ↓sem_trace_2, ↓sem_trace_3, ↓sem_trace_4, ↓load_const,
      cc_iff, ea, and_imm, and_imm_left, ilog2_lit, or_eq_zero, or_mod32, or_lt_2p31,
      Nat.mod_mod, Nat.zero_or, Nat.or_zero, Nat.sub_zero, Nat.add_mod_right, lane_eq,
      Machine.io_eq_get, Nat.xor_self, Loc.x.injEq, Loc.g.injEq, Loc.m.injEq,
      Bool.toNat_eq_zero, Bool.toNat_eq_one, Nat.reducePow, Nat.reduceMul, Nat.reduceMod,
      Nat.reduceAdd, Nat.reduceSub, Nat.reduceDiv, Nat.reduceEqDiff, Nat.reduceLTLE,
      Nat.reduceLeDiff, Nat.reduceLT, Nat.reduceGT, Nat.reduceOr, Nat.reduceXor,
      reduceCtorEq, Bool.not_eq_true', Bool.not_eq_true, decide_eq_true_eq,
      decide_eq_false_iff_not, Bool.and_eq_true, Bool.or_eq_true, bne_iff_ne, beq_iff_eq,
      ne_eq, Bool.not_eq_false', Bool.not_eq_false, decide_not, not_not,
      Bool.decide_eq_true, Bool.false_eq_true, Bool.true_eq_false, not_false_eq_true,
      not_true_eq_false, and_true, true_and, and_false, false_and, or_true, true_or,
      or_false, false_or, not_true, not_false_iff, iff_self, true_iff, iff_true, false_iff,
      iff_false, ite_self, decide_eq_decide, decide_False, decide_True, Bool.not_true,
      Bool.not_false]

theorem pow_L_2TAG_PACKET_33_0_2_1_trace (cpu : Cpu) (s : Machine) :
    (L_2TAG_PACKET_33_0_2_1 cpu s).trace = Label.L_2TAG_PACKET_33_0_2 :: s.trace := rfl

theorem pow_L_2TAG_PACKET_33_0_2_2_trace (cpu : Cpu) (s : Machine) :
    (L_2TAG_PACKET_33_0_2_2 cpu s).trace = s.trace := rfl

theorem pow_L_2TAG_PACKET_32_0_2_1_trace (cpu : Cpu) (s : Machine) :
    (L_2TAG_PACKET_32_0_2_1 cpu s).trace = Label.L_2TAG_PACKET_32_0_2 :: s.trace := rfl

theorem pow_L_2TAG_PACKET_32_0_2_2_trace (cpu : Cpu) (s : Machine) :
    (L_2TAG_PACKET_32_0_2_2 cpu s).trace = s.trace := rfl

theorem pow_L_2TAG_PACKET_32_0_2_3_trace (cpu : Cpu) (s : Machine) :
    (L_2TAG_PACKET_32_0_2_3 cpu s).trace = s.trace := rfl

theorem pow_L_2TAG_PACKET_32_0_2_4_trace (cpu : Cpu) (s : Machine) :
    (L_2TAG_PACKET_32_0_2_4 cpu s).trace = s.trace := rfl

theorem pow_L_2TAG_PACKET_31_0_2_1_trace (cpu : Cpu) (s : Machine) :
    (L_2TAG_PACKET_31_0_2_1 cpu s).trace = Label.L_2TAG_PACKET_31_0_2 :: s.trace := rfl

theorem pow_L_2TAG_PACKET_30_0_2_1_trace (cpu : Cpu) (s : Machine) :
    (L_2TAG_PACKET_30_0_2_1 cpu s).trace = Label.L_2TAG_PACKET_30_0_2 :: s.trace := rfl

theorem pow_L_2TAG_PACKET_30_0_2_2_trace (cpu : Cpu) (s : Machine) :
    (L_2TAG_PACKET_30_0_2_2 cpu s).trace = s.trace := rfl

theorem pow_L_2TAG_PACKET_29_0_2_1_trace (cpu : Cpu) (s : Machine) :
    (L_2TAG_PACKET_29_0_2_1 cpu s).trace = Label.L_2TAG_PACKET_29_0_2 :: s.trace := rfl

theorem pow_L_2TAG_PACKET_29_0_2_2_trace (cpu : Cpu) (s : Machine) :
    (L_2TAG_PACKET_29_0_2_2 cpu s).trace = s.trace := rfl

theorem pow_L_2TAG_PACKET_29_0_2_3_trace (cpu : Cpu) (s : Machine) :
    (L_2TAG_PACKET_29_0_2_3 cpu s).trace = s.trace := rfl

theorem pow_L_2TAG_PACKET_28_0_2_1_trace (cpu : Cpu) (s : Machine) :
    (L_2TAG_PACKET_28_0_2_1 cpu s).trace = Label.L_2TAG_PACKET_28_0_2 :: s.trace := rfl

theorem pow_L_2TAG_PACKET_28_0_2_2_trace (cpu : Cpu) (s : Machine) :
    (L_2TAG_PACKET_28_0_2_2 cpu s).trace = s.trace := rfl

theorem pow_L_2TAG_PACKET_7_0_2_1_trace (cpu : Cpu) (s : Machine) :
    (L_2TAG_PACKET_7_0_2_1 cpu s).trace = Label.L_2TAG_PACKET_7_0_2 :: s.trace := rfl

theorem pow_L_2TAG_PACKET_7_0_2_2_trace (cpu : Cpu) (s : Machine) :
    (L_2TAG_PACKET_7_0_2_2 cpu s).trace = s.trace := rfl

theorem pow_L_2TAG_PACKET_7_0_2_3_trace (cpu : Cpu) (s : Machine) :
    (L_2TAG_PACKET_7_0_2_3 cpu s).trace = s.trace := rfl

theorem pow_L_2TAG_PACKET_7_0_2_4_trace (cpu : Cpu) (s : Machine) :
    (L_2TAG_PACKET_7_0_2_4 cpu s).trace = s.trace := rfl

theorem pow_L_2TAG_PACKET_7_0_2_5_trace (cpu : Cpu) (s : Machine) :
    (L_2TAG_PACKET_7_0_2_5 cpu s).trace = s.trace := rfl

theorem pow_L_2TAG_PACKET_7_0_2_6_trace (cpu : Cpu) (s : Machine) :
    (L_2TAG_PACKET_7_0_2_6 cpu s).trace = s.trace := rfl

theorem pow_L_2TAG_PACKET_7_0_2_7_trace (cpu : Cpu) (s : Machine) :
    (L_2TAG_PACKET_7_0_2_7 cpu s).trace = s.trace := rfl

theorem pow_L_2TAG_PACKET_7_0_2_8_trace (cpu : Cpu) (s : Machine) :
    (L_2TAG_PACKET_7_0_2_8 cpu s).trace = s.trace := rfl

theorem pow_L_2TAG_PACKET_7_0_2_9_trace (cpu : Cpu) (s : Machine) :
    (L_2TAG_PACKET_7_0_2_9 cpu s).trace = s.trace := rfl

theorem pow_L_2TAG_PACKET_19_0_2_1_trace (cpu : Cpu) (s : Machine) :
    (L_2TAG_PACKET_19_0_2_1 cpu s).trace = Label.L_2TAG_PACKET_19_0_2 :: s.trace := rfl

theorem pow_L_2TAG_PACKET_24_0_2_1_trace (cpu : Cpu) (s : Machine) :
    (L_2TAG_PACKET_24_0_2_1 cpu s).trace = Label.L_2TAG_PACKET_24_0_2 :: s.trace := rfl

theorem pow_L_2TAG_PACKET_24_0_2_2_trace (cpu : Cpu) (s : Machine) :
    (L_2TAG_PACKET_24_0_2_2 cpu s).trace = s.trace := rfl

theorem pow_L_2TAG_PACKET_27_0_2_1_trace (cpu : Cpu) (s : Machine) :
    (L_2TAG_PACKET_27_0_2_1 cpu s).trace = Label.L_2TAG_PACKET_27_0_2 :: s.trace := rfl

theorem pow_L_2TAG_PACKET_25_0_2_1_trace (cpu : Cpu) (s : Machine) :
    (L_2TAG_PACKET_25_0_2_1 cpu s).trace = Label.L_2TAG_PACKET_25_0_2 :: s.trace := rfl

theorem pow_L_2TAG_PACKET_25_0_2_2_trace (cpu : Cpu) (s : Machine) :
    (L_2TAG_PACKET_25_0_2_2 cpu s).trace = s.trace := rfl

theorem pow_L_2TAG_PACKET_26_0_2_1_trace (cpu : Cpu) (s : Machine) :
    (L_2TAG_PACKET_26_0_2_1 cpu s).trace = Label.L_2TAG_PACKET_26_0_2 :: s.trace := rfl

theorem pow_L_2TAG_PACKET_26_0_2_2_trace (cpu : Cpu) (s : Machine) :
    (L_2TAG_PACKET_26_0_2_2 cpu s).trace = s.trace := rfl

theorem pow_L_2TAG_PACKET_23_0_2_1_trace (cpu : Cpu) (s : Machine) :
    (L_2TAG_PACKET_23_0_2_1 cpu s).trace = Label.L_2TAG_PACKET_23_0_2 :: s.trace := rfl

theorem pow_L_2TAG_PACKET_23_0_2_2_trace (cpu : Cpu) (s : Machine) :
    (L_2TAG_PACKET_23_0_2_2 cpu s).trace = s.trace := rfl

theorem pow_L_2TAG_PACKET_23_0_2_3_trace (cpu : Cpu) (s : Machine) :
    (L_2TAG_PACKET_23_0_2_3 cpu s).trace = s.trace := rfl

theorem pow_L_2TAG_PACKET_21_0_2_1_trace (cpu : Cpu) (s : Machine) :
    (L_2TAG_PACKET_21_0_2_1 cpu s).trace = Label.L_2TAG_PACKET_21_0_2 :: s.trace := by
  set_option maxRecDepth 8000 in
  simp only [
      ↓reduceIte, ↓fast_pow.pow_L_2TAG_PACKET_21_0_2_1_sem, ↓Machine.get_setx,
      ↓Machine.get_setg, ↓Machine.get_setstk, ↓Machine.get_enter, ↓Machine.get_setFlags,
      ↓Machine.trace_set, ↓Machine.get_ite, ↓Machine.trace_ite, ↓Machine.obs_eq_get,
      ↓Machine.flags_get, ↓Machine.flags_trace, ↓sem_get_1, ↓sem_get_2, ↓sem_get_3,
      ↓sem_get_4, ↓sem_trace_1, ↓sem_trace_2, ↓sem_trace_3, ↓sem_trace_4, ↓load_const,
      cc_iff, ea, and_imm, and_imm_left, ilog2_lit, or_eq_zero, or_mod32, or_lt_2p31,
      Nat.mod_mod, Nat.zero_or, Nat.or_zero, Nat.sub_zero, Nat.add_mod_right, lane_eq,
      Machine.io_eq_get, Nat.xor_self, Loc.x.injEq, Loc.g.injEq, Loc.m.injEq,
      Bool.toNat_eq_zero, Bool.toNat_eq_one, Nat.reducePow, Nat.reduceMul, Nat.reduceMod,
      Nat.reduceAdd, Nat.reduceSub, Nat.reduceDiv, Nat.reduceEqDiff, Nat.reduceLTLE,
      Nat.reduceLeDiff, Nat.reduceLT, Nat.reduceGT, Nat.reduceOr, Nat.reduceXor,
      reduceCtorEq, Bool.not_eq_true', Bool.not_eq_true, decide_eq_true_eq,
      decide_eq_false_iff_not, Bool.and_eq_true, Bool.or_eq_true, bne_iff_ne, beq_iff_eq,
      ne_eq, Bool.not_eq_false', Bool.not_eq_false, decide_not, not_not,
      Bool.decide_eq_true, Bool.false_eq_true, Bool.true_eq_false, not_false_eq_true,
      not_true_eq_false, and_true, true_and, and_false, false_and, or_true, true_or,
      or_false, false_or, not_true, not_false_iff, iff_self, true_iff, iff_true, false_iff,
      iff_false, ite_self, decide_eq_decide, decide_False, decide_True, Bool.not_true,
      Bool.not_false]

theorem pow_L_2TAG_PACKET_21_0_2_2_trace (cpu : Cpu) (s : Machine) :
    (L_2TAG_PACKET_21_0_2_2 cpu s).trace = s.trace := rfl

theorem pow_L_2TAG_PACKET_21_0_2_3_trace (cpu : Cpu) (s : Machine) :
    (L_2TAG_PACKET_21_0_2_3 cpu s).trace = s.trace := rfl

theorem pow_L_2TAG_PACKET_21_0_2_4_trace (cpu : Cpu) (s : Machine) :
    (L_2TAG_PACKET_21_0_2_4 cpu s).trace = s.trace := rfl

theorem pow_L_2TAG_PACKET_21_0_2_5_trace (cpu : Cpu) (s : Machine) :
    (L_2TAG_PACKET_21_0_2_5 cpu s).trace = s.trace := rfl

theorem pow_L_2TAG_PACKET_21_0_2_6_trace (cpu : Cpu) (s : Machine) :
    (L_2TAG_PACKET_21_0_2_6 cpu s).trace = s.trace := rfl

theorem pow_L_2TAG_PACKET_21_0_2_7_trace (cpu : Cpu) (s : Machine) :
    (L_2TAG_PACKET_21_0_2_7 cpu s).trace = s.trace := rfl

theorem pow_L_2TAG_PACKET_20_0_2_1_trace (cpu : Cpu) (s : Machine) :
    (L_2TAG_PACKET_20_0_2_1 cpu s).trace = Label.L_2TAG_PACKET_20_0_2 :: s.trace := rfl

theorem pow_L_2TAG_PACKET_20_0_2_2_trace (cpu : Cpu) (s : Machine) :
    (L_2TAG_PACKET_20_0_2_2 cpu s).trace = s.trace := rfl

theorem pow_L_2TAG_PACKET_20_0_2_3_trace (cpu : Cpu) (s : Machine) :
    (L_2TAG_PACKET_20_0_2_3 cpu s).trace = s.trace := rfl

theorem pow_L_2TAG_PACKET_15_0_2_1_trace (cpu : Cpu) (s : Machine) :
    (L_2TAG_PACKET_15_0_2_1 cpu s).trace = Label.L_2TAG_PACKET_15_0_2 :: s.trace := rfl

theorem pow_L_2TAG_PACKET_15_0_2_2_trace (cpu : Cpu) (s : Machine) :
    (L_2TAG_PACKET_15_0_2_2 cpu s).trace = s.trace := rfl

theorem pow_L_2TAG_PACKET_15_0_2_3_trace (cpu : Cpu) (s : Machine) :
    (L_2TAG_PACKET_15_0_2_3 cpu s).trace = s.trace := rfl

theorem pow_L_2TAG_PACKET_15_0_2_4_trace (cpu : Cpu) (s : Machine) :
    (L_2TAG_PACKET_15_0_2_4 cpu s).trace = s.trace := rfl

theorem pow_L_2TAG_PACKET_16_0_2_1_trace (cpu : Cpu) (s : Machine) :
    (L_2TAG_PACKET_16_0_2_1 cpu s).trace = Label.L_2TAG_PACKET_16_0_2 :: s.trace := rfl

theorem pow_L_2TAG_PACKET_6_0_2_1_trace (cpu : Cpu) (s : Machine) :
    (L_2TAG_PACKET_6_0_2_1 cpu s).trace = Label.L_2TAG_PACKET_6_0_2 :: s.trace := rfl

theorem pow_L_2TAG_PACKET_6_0_2_2_trace (cpu : Cpu) (s : Machine) :
    (L_2TAG_PACKET_6_0_2_2 cpu s).trace = s.trace := rfl

theorem pow_L_2TAG_PACKET_6_0_2_3_trace (cpu : Cpu) (s : Machine) :
    (L_2TAG_PACKET_6_0_2_3 cpu s).trace = s.trace := rfl

theorem pow_L_2TAG_PACKET_0_0_2_1_trace (cpu : Cpu) (s : Machine) :
    (L_2TAG_PACKET_0_0_2_1 cpu s).trace = Label.L_2TAG_PACKET_0_0_2 :: s.trace := rfl

theorem pow_L_2TAG_PACKET_0_0_2_2_trace (cpu : Cpu) (s : Machine) :
    (L_2TAG_PACKET_0_0_2_2 cpu s).trace = s.trace := rfl

theorem pow_L_2TAG_PACKET_0_0_2_3_trace (cpu : Cpu) (s : Machine) :
    (L_2TAG_PACKET_0_0_2_3 cpu s).trace = s.trace := rfl

theorem pow_B1_2_1_trace (cpu : Cpu) (s : Machine) :
    (B1_2_1 cpu s).trace = Label.B1_2 :: s.trace := by
  set_option maxRecDepth 8000 in
  simp only [
      ↓reduceIte, ↓fast_pow.pow_B1_2_1_sem, ↓Machine.get_setx, ↓Machine.get_setg,
      ↓Machine.get_setstk, ↓Machine.get_enter, ↓Machine.get_setFlags, ↓Machine.trace_set,
      ↓Machine.get_ite, ↓Machine.trace_ite, ↓Machine.obs_eq_get, ↓Machine.flags_get,
      ↓Machine.flags_trace, ↓sem_get_1, ↓sem_get_2, ↓sem_get_3, ↓sem_get_4, ↓sem_trace_1,
      ↓sem_trace_2, ↓sem_trace_3, ↓sem_trace_4, ↓load_const, cc_iff, ea, and_imm,
      and_imm_left, ilog2_lit, or_eq_zero, or_mod32, or_lt_2p31, Nat.mod_mod, Nat.zero_or,
      Nat.or_zero, Nat.sub_zero, Nat.add_mod_right, lane_eq, Machine.io_eq_get,
      Nat.xor_self, Loc.x.injEq, Loc.g.injEq, Loc.m.injEq, Bool.toNat_eq_zero,
      Bool.toNat_eq_one, Nat.reducePow, Nat.reduceMul, Nat.reduceMod, Nat.reduceAdd,
      Nat.reduceSub, Nat.reduceDiv, Nat.reduceEqDiff, Nat.reduceLTLE, Nat.reduceLeDiff,
      Nat.reduceLT, Nat.reduceGT, Nat.reduceOr, Nat.reduceXor, reduceCtorEq,
      Bool.not_eq_true', Bool.not_eq_true, decide_eq_true_eq, decide_eq_false_iff_not,
      Bool.and_eq_true, Bool.or_eq_true, bne_iff_ne, beq_iff_eq, ne_eq, Bool.not_eq_false',
      Bool.not_eq_false, decide_not, not_not, Bool.decide_eq_true, Bool.false_eq_true,
      Bool.true_eq_false, not_false_eq_true, not_true_eq_false, and_true, true_and,
      and_false, false_and, or_true, true_or, or_false, false_or, not_true, not_false_iff,
      iff_self, true_iff, iff_true, false_iff, iff_false, ite_self, decide_eq_decide,
      decide_False, decide_True, Bool.not_true, Bool.not_false]

theorem pow_B1_2_2_trace (cpu : Cpu) (s : Machine) :
    (B1_2_2 cpu s).trace = s.trace := rfl

theorem pow_start_1_trace (cpu : Cpu) (s : Machine) :
    (start_1 cpu s).trace = Label.start :: s.trace := rfl

theorem pow_entry_1_trace (cpu : Cpu) (s : Machine) :
    (entry_1 cpu s).trace = Label.entry :: s.trace := rfl

theorem pow_B1_5_descends (r : Label → Nat) (hr : ∀ b, ∀ c ∈ succ b, r c < r b)
    (cpu : Cpu) (s : Machine) :
    Descends r .B1_5 (B1_5 cpu s).trace s.trace := by
  rw [pow_B1_5_eq]
  · exact descends_exit _ _ _ _ (by rw [pow_B1_5_1_trace])

theorem pow_L_2TAG_PACKET_56_0_2_descends (r : Label → Nat) (hr : ∀ b, ∀ c ∈ succ b, r c < r b)
    (cpu : Cpu) (s : Machine) :
    Descends r .L_2TAG_PACKET_56_0_2 (L_2TAG_PACKET_56_0_2 cpu s).trace s.trace := by
  rw [pow_L_2TAG_PACKET_56_0_2_eq]
  · exact descends_step _ _ .B1_5 _ _ _ (by rw [pow_L_2TAG_PACKET_56_0_2_1_trace]) (hr _ _ (by decide))
      (pow_B1_5_descends r hr cpu _)

theorem pow_B1_3_descends (r : Label → Nat) (hr : ∀ b, ∀ c ∈ succ b, r c < r b)
    (cpu : Cpu) (s : Machine) :
    Descends r .B1_3 (B1_3 cpu s).trace s.trace := by
  rw [pow_B1_3_eq]
  · exact descends_step _ _ .L_2TAG_PACKET_56_0_2 _ _ _ (by rw [pow_B1_3_1_trace]) (hr _ _ (by decide))
      (pow_L_2TAG_PACKET_56_0_2_descends r hr cpu _)

theorem pow_L_2TAG_PACKET_17_0_2_descends (r : Label → Nat) (hr : ∀ b, ∀ c ∈ succ b, r c < r b)
    (cpu : Cpu) (s : Machine) :
    Descends r .L_2TAG_PACKET_17_0_2 (L_2TAG_PACKET_17_0_2 cpu s).trace s.trace := by
  rw [pow_L_2TAG_PACKET_17_0_2_eq]
  · exact descends_step _ _ .B1_3 _ _ _ (by rw [pow_L_2TAG_PACKET_17_0_2_1_trace]) (hr _ _ (by decide))
      (pow_B1_3_descends r hr cpu _)

theorem pow_L_2TAG_PACKET_44_0_2_descends (r : Label → Nat) (hr : ∀ b, ∀ c ∈ succ b, r c < r b)
    (cpu : Cpu) (s : Machine) :
    Descends r .L_2TAG_PACKET_44_0_2 (L_2TAG_PACKET_44_0_2 cpu s).trace s.trace := by
  rw [pow_L_2TAG_PACKET_44_0_2_eq]
  · exact descends_step _ _ .L_2TAG_PACKET_17_0_2 _ _ _ (by rw [pow_L_2TAG_PACKET_44_0_2_1_trace]) (hr _ _ (by decide))
      (pow_L_2TAG_PACKET_17_0_2_descends r hr cpu _)

theorem pow_L_2TAG_PACKET_22_0_2_descends (r : Label → Nat) (hr : ∀ b, ∀ c ∈ succ b, r c < r b)
    (cpu : Cpu) (s : Machine) :
    Descends r .L_2TAG_PACKET_22_0_2 (L_2TAG_PACKET_22_0_2 cpu s).trace s.trace := by
  rw [pow_L_2TAG_PACKET_22_0_2_eq]
  · exact descends_step _ _ .B1_5 _ _ _ (by rw [pow_L_2TAG_PACKET_22_0_2_1_trace]) (hr _ _ (by decide))
      (pow_B1_5_descends r hr cpu _)

theorem pow_L_2TAG_PACKET_41_0_2_descends (r : Label → Nat) (hr : ∀ b, ∀ c ∈ succ b, r c < r b)
    (cpu : Cpu) (s : Machine) :
    Descends r .L_2TAG_PACKET_41_0_2 (L_2TAG_PACKET_41_0_2 cpu s).trace s.trace := by
  rw [pow_L_2TAG_PACKET_41_0_2_eq]
  split_ifs
  · exact descends_step _ _ .L_2TAG_PACKET_22_0_2 _ _ _ (by rw [pow_L_2TAG_PACKET_41_0_2_1_trace]) (hr _ _ (by decide))
      (pow_L_2TAG_PACKET_22_0_2_descends r hr cpu _)
  · exact descends_step _ _ .L_2TAG_PACKET_44_0_2 _ _ _ (by rw [pow_L_2TAG_PACKET_41_0_2_2_trace, pow_L_2TAG_PACKET_41_0_2_1_trace]) (hr _ _ (by decide))
      (pow_L_2TAG_PACKET_44_0_2_descends r hr cpu _)

theorem pow_L_2TAG_PACKET_43_0_2_descends (r : Label → Nat) (hr : ∀ b, ∀ c ∈ succ b, r c < r b)
    (cpu : Cpu) (s : Machine) :
    Descends r .L_2TAG_PACKET_43_0_2 (L_2TAG_PACKET_43_0_2 cpu s).trace s.trace := by
  rw [pow_L_2TAG_PACKET_43_0_2_eq]
  split_ifs
  · exact descends_step _ _ .L_2TAG_PACKET_44_0_2 _ _ _ (by rw [pow_L_2TAG_PACKET_43_0_2_1_trace]) (hr _ _ (by decide))
      (pow_L_2TAG_PACKET_44_0_2_descends r hr cpu _)
  · exact descends_step _ _ .B1_5 _ _ _ (by rw [pow_L_2TAG_PACKET_43_0_2_2_trace, pow_L_2TAG_PACKET_43_0_2_1_trace]) (hr _ _ (by decide))
      (pow_B1_5_descends r hr cpu _)

theorem pow_L_2TAG_PACKET_42_0_2_descends (r : Label → Nat) (hr : ∀ b, ∀ c ∈ succ b, r c < r b)
    (cpu : Cpu) (s : Machine) :
    Descends r .L_2TAG_PACKET_42_0_2 (L_2TAG_PACKET_42_0_2 cpu s).trace s.trace := by
  rw [pow_L_2TAG_PACKET_42_0_2_eq]
  split_ifs
  · exact descends_step _ _ .L_2TAG_PACKET_43_0_2 _ _ _ (by rw [pow_L_2TAG_PACKET_42_0_2_1_trace]) (hr _ _ (by decide))
      (pow_L_2TAG_PACKET_43_0_2_descends r hr cpu _)
  · exact descends_step _ _ .L_2TAG_PACKET_41_0_2 _ _ _ (by rw [pow_L_2TAG_PACKET_42_0_2_2_trace, pow_L_2TAG_PACKET_42_0_2_1_trace]) (hr _ _ (by decide))
      (pow_L_2TAG_PACKET_41_0_2_descends r hr cpu _)

theorem pow_L_2TAG_PACKET_39_0_2_descends (r : Label → Nat) (hr : ∀ b, ∀ c ∈ succ b, r c < r b)
    (cpu : Cpu) (s : Machine) :
    Descends r .L_2TAG_PACKET_39_0_2 (L_2TAG_PACKET_39_0_2 cpu s).trace s.trace := by
  rw [pow_L_2TAG_PACKET_39_0_2_eq]
  · exact descends_step _ _ .L_2TAG_PACKET_17_0_2 _ _ _ (by rw [pow_L_2TAG_PACKET_39_0_2_1_trace]) (hr _ _ (by decide))
      (pow_L_2TAG_PACKET_17_0_2_descends r hr cpu _)

theorem pow_L_2TAG_PACKET_40_0_2_descends (r : Label → Nat) (hr : ∀ b, ∀ c ∈ succ b, r c < r b)
    (cpu : Cpu) (s : Machine) :
    Descends r .L_2TAG_PACKET_40_0_2 (L_2TAG_PACKET_40_0_2 cpu s).trace s.trace := by
  rw [pow_L_2TAG_PACKET_40_0_2_eq]
  split_ifs
  · exact descends_step _ _ .L_2TAG_PACKET_39_0_2 _ _ _ (by rw [pow_L_2TAG_PACKET_40_0_2_1_trace]) (hr _ _ (by decide))
      (pow_L_2TAG_PACKET_39_0_2_descends r hr cpu _)
  · exact descends_step _ _ .L_2TAG_PACKET_41_0_2 _ _ _ (by rw [pow_L_2TAG_PACKET_40_0_2_2_trace, pow_L_2TAG_PACKET_40_0_2_1_trace]) (hr _ _ (by decide))
      (pow_L_2TAG_PACKET_41_0_2_descends r hr cpu _)
  · exact descends_step _ _ .L_2TAG_PACKET_42_0_2 _ _ _ (by rw [pow_L_2TAG_PACKET_40_0_2_3_trace, pow_L_2TAG_PACKET_40_0_2_2_trace, pow_L_2TAG_PACKET_40_0_2_1_trace]) (hr _ _ (by decide))
      (pow_L_2TAG_PACKET_42_0_2_descends r hr cpu _)
  · exact descends_step _ _ .L_2TAG_PACKET_41_0_2 _ _ _ (by rw [pow_L_2TAG_PACKET_40_0_2_4_trace, pow_L_2TAG_PACKET_40_0_2_3_trace, pow_L_2TAG_PACKET_40_0_2_2_trace, pow_L_2TAG_PACKET_40_0_2_1_trace]) (hr _ _ (by decide))
      (pow_L_2TAG_PACKET_41_0_2_descends r hr cpu _)
  · exact descends_step _ _ .L_2TAG_PACKET_41_0_2 _ _ _ (by rw [pow_L_2TAG_PACKET_40_0_2_5_trace, pow_L_2TAG_PACKET_40_0_2_4_trace, pow_L_2TAG_PACKET_40_0_2_3_trace, pow_L_2TAG_PACKET_40_0_2_2_trace, pow_L_2TAG_PACKET_40_0_2_1_trace]) (hr _ _ (by decide))
      (pow_L_2TAG_PACKET_41_0_2_descends r hr cpu _)
  · exact descends_step _ _ .L_2TAG_PACKET_41_0_2 _ _ _ (by rw [pow_L_2TAG_PACKET_40_0_2_6_trace, pow_L_2TAG_PACKET_40_0_2_5_trace, pow_L_2TAG_PACKET_40_0_2_4_trace, pow_L_2TAG_PACKET_40_0_2_3_trace, pow_L_2TAG_PACKET_40_0_2_2_trace, pow_L_2TAG_PACKET_40_0_2_1_trace]) (hr _ _ (by decide))
      (pow_L_2TAG_PACKET_41_0_2_descends r hr cpu _)
  · exact descends_step _ _ .L_2TAG_PACKET_43_0_2 _ _ _ (by rw [pow_L_2TAG_PACKET_40_0_2_7_trace, pow_L_2TAG_PACKET_40_0_2_6_trace, pow_L_2TAG_PACKET_40_0_2_5_trace, pow_L_2TAG_PACKET_40_0_2_4_trace, pow_L_2TAG_PACKET_40_0_2_3_trace, pow_L_2TAG_PACKET_40_0_2_2_trace, pow_L_2TAG_PACKET_40_0_2_1_trace]) (hr _ _ (by decide))
      (pow_L_2TAG_PACKET_43_0_2_descends r hr cpu _)

theorem pow_L_2TAG_PACKET_18_0_2_descends (r : Label → Nat) (hr : ∀ b, ∀ c ∈ succ b, r c < r b)
    (cpu : Cpu) (s : Machine) :
    Descends r .L_2TAG_PACKET_18_0_2 (L_2TAG_PACKET_18_0_2 cpu s).trace s.trace := by
  rw [pow_L_2TAG_PACKET_18_0_2_eq]
  · exact descends_step _ _ .B1_5 _ _ _ (by rw [pow_L_2TAG_PACKET_18_0_2_1_trace]) (hr _ _ (by decide))
      (pow_B1_5_descends r hr cpu _)

theorem pow_L_2TAG_PACKET_9_0_2_descends (r : Label → Nat) (hr : ∀ b, ∀ c ∈ succ b, r c < r b)
    (cpu : Cpu) (s : Machine) :
    Descends r .L_2TAG_PACKET_9_0_2 (L_2TAG_PACKET_9_0_2 cpu s).trace s.trace := by
  rw [pow_L_2TAG_PACKET_9_0_2_eq]
  split_ifs
  · exact descends_step _ _ .L_2TAG_PACKET_40_0_2 _ _ _ (by rw [pow_L_2TAG_PACKET_9_0_2_1_trace]) (hr _ _ (by decide))
      (pow_L_2TAG_PACKET_40_0_2_descends r hr cpu _)
  · exact descends_step _ _ .L_2TAG_PACKET_18_0_2 _ _ _ (by rw [pow_L_2TAG_PACKET_9_0_2_2_trace, pow_L_2TAG_PACKET_9_0_2_1_trace]) (hr _ _ (by decide))
      (pow_L_2TAG_PACKET_18_0_2_descends r hr cpu _)
  · exact descends_step _ _ .L_2TAG_PACKET_40_0_2 _ _ _ (by rw [pow_L_2TAG_PACKET_9_0_2_3_trace, pow_L_2TAG_PACKET_9_0_2_2_trace, pow_L_2TAG_PACKET_9_0_2_1_trace]) (hr _ _ (by decide))
      (pow_L_2TAG_PACKET_40_0_2_descends r hr cpu _)

theorem pow_L_2TAG_PACKET_37_0_2_descends (r : Label → Nat) (hr : ∀ b, ∀ c ∈ succ b, r c < r b)
    (cpu : Cpu) (s : Machine) :
    Descends r .L_2TAG_PACKET_37_0_2 (L_2TAG_PACKET_37_0_2 cpu s).trace s.trace := by
  rw [pow_L_2TAG_PACKET_37_0_2_eq]
  · exact descends_step _ _ .B1_5 _ _ _ (by rw [pow_L_2TAG_PACKET_37_0_2_1_trace]) (hr _ _ (by decide))
      (pow_B1_5_descends r hr cpu _)

theorem pow_L_2TAG_PACKET_48_0_2_descends (r : Label → Nat) (hr : ∀ b, ∀ c ∈ succ b, r c < r b)
    (cpu : Cpu) (s : Machine) :
    Descends r .L_2TAG_PACKET_48_0_2 (L_2TAG_PACKET_48_0_2 cpu s).trace s.trace := by
  rw [pow_L_2TAG_PACKET_48_0_2_eq]
  · exact descends_step _ _ .L_2TAG_PACKET_17_0_2 _ _ _ (by rw [pow_L_2TAG_PACKET_48_0_2_1_trace]) (hr _ _ (by decide))
      (pow_L_2TAG_PACKET_17_0_2_descends r hr cpu _)

theorem pow_L_2TAG_PACKET_50_0_2_descends (r : Label → Nat) (hr : ∀ b, ∀ c ∈ succ b, r c < r b)
    (cpu : Cpu) (s : Machine) :
    Descends r .L_2TAG_PACKET_50_0_2 (L_2TAG_PACKET_50_0_2 cpu s).trace s.trace := by
  rw [pow_L_2TAG_PACKET_50_0_2_eq]
  · exact descends_step _ _ .L_2TAG_PACKET_48_0_2 _ _ _ (by rw [pow_L_2TAG_PACKET_50_0_2_1_trace]) (hr _ _ (by decide))
      (pow_L_2TAG_PACKET_48_0_2_descends r hr cpu _)

theorem pow_L_2TAG_PACKET_49_0_2_descends (r : Label → Nat) (hr : ∀ b, ∀ c ∈ succ b, r c < r b)
    (cpu : Cpu) (s : Machine) :
    Descends r .L_2TAG_PACKET_49_0_2 (L_2TAG_PACKET_49_0_2 cpu s).trace s.trace := by
  rw [pow_L_2TAG_PACKET_49_0_2_eq]
  · exact descends_step _ _ .L_2TAG_PACKET_50_0_2 _ _ _ (by rw [pow_L_2TAG_PACKET_49_0_2_1_trace]) (hr _ _ (by decide))
      (pow_L_2TAG_PACKET_50_0_2_descends r hr cpu _)

theorem pow_L_2TAG_PACKET_13_0_2_descends (r : Label → Nat) (hr : ∀ b, ∀ c ∈ succ b, r c < r b)
    (cpu : Cpu) (s : Machine) :
    Descends r .L_2TAG_PACKET_13_0_2 (L_2TAG_PACKET_13_0_2 cpu s).trace s.trace := by
  rw [pow_L_2TAG_PACKET_13_0_2_eq]
  split_ifs
  · exact descends_step _ _ .L_2TAG_PACKET_49_0_2 _ _ _ (by rw [pow_L_2TAG_PACKET_13_0_2_1_trace]) (hr _ _ (by decide))
      (pow_L_2TAG_PACKET_49_0_2_descends r hr cpu _)
  · exact descends_step _ _ .L_2TAG_PACKET_50_0_2 _ _ _ (by rw [pow_L_2TAG_PACKET_13_0_2_2_trace, pow_L_2TAG_PACKET_13_0_2_1_trace]) (hr _ _ (by decide))
      (pow_L_2TAG_PACKET_50_0_2_descends r hr cpu _)
  · exact descends_step _ _ .L_2TAG_PACKET_49_0_2 _ _ _ (by rw [pow_L_2TAG_PACKET_13_0_2_3_trace, pow_L_2TAG_PACKET_13_0_2_2_trace, pow_L_2TAG_PACKET_13_0_2_1_trace]) (hr _ _ (by decide))
      (pow_L_2TAG_PACKET_49_0_2_descends r hr cpu _)

theorem pow_L_2TAG_PACKET_14_0_2_descends (r : Label → Nat) (hr : ∀ b, ∀ c ∈ succ b, r c < r b)
    (cpu : Cpu) (s : Machine) :
    Descends r .L_2TAG_PACKET_14_0_2 (L_2TAG_PACKET_14_0_2 cpu s).trace s.trace := by
  rw [pow_L_2TAG_PACKET_14_0_2_eq]
  · exact descends_step _ _ .L_2TAG_PACKET_17_0_2 _ _ _ (by rw [pow_L_2TAG_PACKET_14_0_2_1_trace]) (hr _ _ (by decide))
      (pow_L_2TAG_PACKET_17_0_2_descends r hr cpu _)

theorem pow_L_2TAG_PACKET_55_0_2_descends (r : Label → Nat) (hr : ∀ b, ∀ c ∈ succ b, r c < r b)
    (cpu : Cpu) (s : Machine) :
    Descends r .L_2TAG_PACKET_55_0_2 (L_2TAG_PACKET_55_0_2 cpu s).trace s.trace := by
  rw [pow_L_2TAG_PACKET_55_0_2_eq]
  · exact descends_step _ _ .B1_5 _ _ _ (by rw [pow_L_2TAG_PACKET_55_0_2_1_trace]) (hr _ _ (by decide))
      (pow_B1_5_descends r hr cpu _)

theorem pow_L_2TAG_PACKET_54_0_2_descends (r : Label → Nat) (hr : ∀ b, ∀ c ∈ succ b, r c < r b)
    (cpu : Cpu) (s : Machine) :
    Descends r .L_2TAG_PACKET_54_0_2 (L_2TAG_PACKET_54_0_2 cpu s).trace s.trace := by
  rw [pow_L_2TAG_PACKET_54_0_2_eq]
  split_ifs
  · exact descends_step _ _ .L_2TAG_PACKET_55_0_2 _ _ _ (by rw [pow_L_2TAG_PACKET_54_0_2_1_trace]) (hr _ _ (by decide))
      (pow_L_2TAG_PACKET_55_0_2_descends r hr cpu _)
  · exact descends_step _ _ .B1_5 _ _ _ (by rw [pow_L_2TAG_PACKET_54_0_2_2_trace, pow_L_2TAG_PACKET_54_0_2_1_trace]) (hr _ _ (by decide))
      (pow_B1_5_descends r hr cpu _)

theorem pow_L_2TAG_PACKET_53_0_2_descends (r : Label → Nat) (hr : ∀ b, ∀ c ∈ succ b, r c < r b)
    (cpu : Cpu) (s : Machine) :
    Descends r .L_2TAG_PACKET_53_0_2 (L_2TAG_PACKET_53_0_2 cpu s).trace s.trace := by
  rw [pow_L_2TAG_PACKET_53_0_2_eq]
  split_ifs
  · exact descends_step _ _ .L_2TAG_PACKET_54_0_2 _ _ _ (by rw [pow_L_2TAG_PACKET_53_0_2_1_trace]) (hr _ _ (by decide))
      (pow_L_2TAG_PACKET_54_0_2_descends r hr cpu _)
  · exact descends_step _ _ .B1_5 _ _ _ (by rw [pow_L_2TAG_PACKET_53_0_2_2_trace, pow_L_2TAG_PACKET_53_0_2_1_trace]) (hr _ _ (by decide))
      (pow_B1_5_descends r hr cpu _)

theorem pow_L_2TAG_PACKET_45_0_2_descends (r : Label → Nat) (hr : ∀ b, ∀ c ∈ succ b, r c < r b)
    (cpu : Cpu) (s : Machine) :
    Descends r .L_2TAG_PACKET_45_0_2 (L_2TAG_PACKET_45_0_2 cpu s).trace s.trace := by
  rw [pow_L_2TAG_PACKET_45_0_2_eq]
  split_ifs
  · exact descends_step _ _ .L_2TAG_PACKET_53_0_2 _ _ _ (by rw [pow_L_2TAG_PACKET_45_0_2_1_trace]) (hr _ _ (by decide))
      (pow_L_2TAG_PACKET_53_0_2_descends r hr cpu _)
  · exact descends_step _ _ .B1_5 _ _ _ (by rw [pow_L_2TAG_PACKET_45_0_2_2_trace, pow_L_2TAG_PACKET_45_0_2_1_trace]) (hr _ _ (by decide))
      (pow_B1_5_descends r hr cpu _)

theorem pow_L_2TAG_PACKET_46_0_2_descends (r : Label → Nat) (hr : ∀ b, ∀ c ∈ succ b, r c < r b)
    (cpu : Cpu) (s : Machine) :
    Descends r .L_2TAG_PACKET_46_0_2 (L_2TAG_PACKET_46_0_2 cpu s).trace s.trace := by
  rw [pow_L_2TAG_PACKET_46_0_2_eq]
  split_ifs
  · exact descends_step _ _ .L_2TAG_PACKET_48_0_2 _ _ _ (by rw [pow_L_2TAG_PACKET_46_0_2_1_trace]) (hr _ _ (by decide))
      (pow_L_2TAG_PACKET_48_0_2_descends r hr cpu _)
  · exact descends_step _ _ .L_2TAG_PACKET_48_0_2 _ _ _ (by rw [pow_L_2TAG_PACKET_46_0_2_2_trace, pow_L_2TAG_PACKET_46_0_2_1_trace]) (hr _ _ (by decide))
      (pow_L_2TAG_PACKET_48_0_2_descends r hr cpu _)

theorem pow_L_2TAG_PACKET_47_0_2_descends (r : Label → Nat) (hr : ∀ b, ∀ c ∈ succ b, r c < r b)
    (cpu : Cpu) (s : Machine) :
    Descends r .L_2TAG_PACKET_47_0_2 (L_2TAG_PACKET_47_0_2 cpu s).trace s.trace := by
  rw [pow_L_2TAG_PACKET_47_0_2_eq]
  · exact descends_step _ _ .L_2TAG_PACKET_14_0_2 _ _ _ (by rw [pow_L_2TAG_PACKET_47_0_2_1_trace]) (hr _ _ (by decide))
      (pow_L_2TAG_PACKET_14_0_2_descends r hr cpu _)

theorem pow_L_2TAG_PACKET_12_0_2_descends (r : Label → Nat) (hr : ∀ b, ∀ c ∈ succ b, r c < r b)
    (cpu : Cpu) (s : Machine) :
    Descends r .L_2TAG_PACKET_12_0_2 (L_2TAG_PACKET_12_0_2 cpu s).trace s.trace := by
  rw [pow_L_2TAG_PACKET_12_0_2_eq]
  split_ifs
  · exact descends_step _ _ .L_2TAG_PACKET_45_0_2 _ _ _ (by rw [pow_L_2TAG_PACKET_12_0_2_1_trace]) (hr _ _ (by decide))
      (pow_L_2TAG_PACKET_45_0_2_descends r hr cpu _)
  · exact descends_step _ _ .L_2TAG_PACKET_46_0_2 _ _ _ (by rw [pow_L_2TAG_PACKET_12_0_2_2_trace, pow_L_2TAG_PACKET_12_0_2_1_trace]) (hr _ _ (by decide))
      (pow_L_2TAG_PACKET_46_0_2_descends r hr cpu _)
  · exact descends_step _ _ .L_2TAG_PACKET_47_0_2 _ _ _ (by rw [pow_L_2TAG_PACKET_12_0_2_3_trace, pow_L_2TAG_PACKET_12_0_2_2_trace, pow_L_2TAG_PACKET_12_0_2_1_trace]) (hr _ _ (by decide))
      (pow_L_2TAG_PACKET_47_0_2_descends r hr cpu _)

theorem pow_L_2TAG_PACKET_38_0_2_descends (r : Label → Nat) (hr : ∀ b, ∀ c ∈ succ b, r c < r b)
    (cpu : Cpu) (s : Machine) :
    Descends r .L_2TAG_PACKET_38_0_2 (L_2TAG_PACKET_38_0_2 cpu s).trace s.trace := by
  rw [pow_L_2TAG_PACKET_38_0_2_eq]
  · exact descends_step _ _ .L_2TAG_PACKET_37_0_2 _ _ _ (by rw [pow_L_2TAG_PACKET_38_0_2_1_trace]) (hr _ _ (by decide))
      (pow_L_2TAG_PACKET_37_0_2_descends r hr cpu _)

theorem pow_L_2TAG_PACKET_11_0_2_descends (r : Label → Nat) (hr : ∀ b, ∀ c ∈ succ b, r c < r b)
    (cpu : Cpu) (s : Machine) :
    Descends r .L_2TAG_PACKET_11_0_2 (L_2TAG_PACKET_11_0_2 cpu s).trace s.trace := by
  rw [pow_L_2TAG_PACKET_11_0_2_eq]
  split_ifs
  · exact descends_step _ _ .L_2TAG_PACKET_38_0_2 _ _ _ (by rw [pow_L_2TAG_PACKET_11_0_2_1_trace]) (hr _ _ (by decide))
      (pow_L_2TAG_PACKET_38_0_2_descends r hr cpu _)
  · exact descends_step _ _ .B1_5 _ _ _ (by rw [pow_L_2TAG_PACKET_11_0_2_2_trace, pow_L_2TAG_PACKET_11_0_2_1_trace]) (hr _ _ (by decide))
      (pow_B1_5_descends r hr cpu _)

theorem pow_L_2TAG_PACKET_5_0_2_descends (r : Label → Nat) (hr : ∀ b, ∀ c ∈ succ b, r c < r b)
    (cpu : Cpu) (s : Machine) :
    Descends r .L_2TAG_PACKET_5_0_2 (L_2TAG_PACKET_5_0_2 cpu s).trace s.trace := by
  rw [pow_L_2TAG_PACKET_5_0_2_eq]
  split_ifs
  · exact descends_step _ _ .L_2TAG_PACKET_11_0_2 _ _ _ (by rw [pow_L_2TAG_PACKET_5_0_2_1_trace]) (hr _ _ (by decide))
      (pow_L_2TAG_PACKET_11_0_2_descends r hr cpu _)
  · exact descends_step _ _ .L_2TAG_PACKET_12_0_2 _ _ _ (by rw [pow_L_2TAG_PACKET_5_0_2_2_trace, pow_L_2TAG_PACKET_5_0_2_1_trace]) (hr _ _ (by decide))
      (pow_L_2TAG_PACKET_12_0_2_descends r hr cpu _)
  · exact descends_step _ _ .L_2TAG_PACKET_12_0_2 _ _ _ (by rw [pow_L_2TAG_PACKET_5_0_2_3_trace, pow_L_2TAG_PACKET_5_0_2_2_trace, pow_L_2TAG_PACKET_5_0_2_1_trace]) (hr _ _ (by decide))
      (pow_L_2TAG_PACKET_12_0_2_descends r hr cpu _)
  · exact descends_step _ _ .L_2TAG_PACKET_13_0_2 _ _ _ (by rw [pow_L_2TAG_PACKET_5_0_2_4_trace, pow_L_2TAG_PACKET_5_0_2_3_trace, pow_L_2TAG_PACKET_5_0_2_2_trace, pow_L_2TAG_PACKET_5_0_2_1_trace]) (hr _ _ (by decide))
      (pow_L_2TAG_PACKET_13_0_2_descends r hr cpu _)
  · exact descends_step _ _ .L_2TAG_PACKET_14_0_2 _ _ _ (by rw [pow_L_2TAG_PACKET_5_0_2_5_trace, pow_L_2TAG_PACKET_5_0_2_4_trace, pow_L_2TAG_PACKET_5_0_2_3_trace, pow_L_2TAG_PACKET_5_0_2_2_trace, pow_L_2TAG_PACKET_5_0_2_1_trace]) (hr _ _ (by decide))
      (pow_L_2TAG_PACKET_14_0_2_descends r hr cpu _)
  · exact descends_step _ _ .B1_5 _ _ _ (by rw [pow_L_2TAG_PACKET_5_0_2_6_trace, pow_L_2TAG_PACKET_5_0_2_5_trace, pow_L_2TAG_PACKET_5_0_2_4_trace, pow_L_2TAG_PACKET_5_0_2_3_trace, pow_L_2TAG_PACKET_5_0_2_2_trace, pow_L_2TAG_PACKET_5_0_2_1_trace]) (hr _ _ (by decide))
      (pow_B1_5_descends r hr cpu _)

theorem pow_L_2TAG_PACKET_4_0_2_descends (r : Label → Nat) (hr : ∀ b, ∀ c ∈ succ b, r c < r b)
    (cpu : Cpu) (s : Machine) :
    Descends r .L_2TAG_PACKET_4_0_2 (L_2TAG_PACKET_4_0_2 cpu s).trace s.trace := by
  rw [pow_L_2TAG_PACKET_4_0_2_eq]
  split_ifs
  · exact descends_step _ _ .L_2TAG_PACKET_5_0_2 _ _ _ (by rw [pow_L_2TAG_PACKET_4_0_2_1_trace]) (hr _ _ (by decide))
      (pow_L_2TAG_PACKET_5_0_2_descends r hr cpu _)
  · exact descends_step _ _ .B1_5 _ _ _ (by rw [pow_L_2TAG_PACKET_4_0_2_2_trace, pow_L_2TAG_PACKET_4_0_2_1_trace]) (hr _ _ (by decide))
      (pow_B1_5_descends r hr cpu _)

theorem pow_L_2TAG_PACKET_8_0_2_descends (r : Label → Nat) (hr : ∀ b, ∀ c ∈ succ b, r c < r b)
    (cpu : Cpu) (s : Machine) :
    Descends r .L_2TAG_PACKET_8_0_2 (L_2TAG_PACKET_8_0_2 cpu s).trace s.trace := by
  rw [pow_L_2TAG_PACKET_8_0_2_eq]
  split_ifs
  · exact descends_step _ _ .L_2TAG_PACKET_9_0_2 _ _ _ (by rw [pow_L_2TAG_PACKET_8_0_2_1_trace]) (hr _ _ (by decide))
      (pow_L_2TAG_PACKET_9_0_2_descends r hr cpu _)
  · exact descends_step _ _ .L_2TAG_PACKET_4_0_2 _ _ _ (by rw [pow_L_2TAG_PACKET_8_0_2_2_trace, pow_L_2TAG_PACKET_8_0_2_1_trace]) (hr _ _ (by decide))
      (pow_L_2TAG_PACKET_4_0_2_descends r hr cpu _)

theorem pow_L_2TAG_PACKET_51_0_2_descends (r : Label → Nat) (hr : ∀ b, ∀ c ∈ succ b, r c < r b)
    (cpu : Cpu) (s : Machine) :
    Descends r .L_2TAG_PACKET_51_0_2 (L_2TAG_PACKET_51_0_2 cpu s).trace s.trace := by
  rw [pow_L_2TAG_PACKET_51_0_2_eq]
  split_ifs
  · exact descends_step _ _ .L_2TAG_PACKET_47_0_2 _ _ _ (by rw [pow_L_2TAG_PACKET_51_0_2_1_trace]) (hr _ _ (by decide))
      (pow_L_2TAG_PACKET_47_0_2_descends r hr cpu _)
  · exact descends_step _ _ .L_2TAG_PACKET_46_0_2 _ _ _ (by rw [pow_L_2TAG_PACKET_51_0_2_2_trace, pow_L_2TAG_PACKET_51_0_2_1_trace]) (hr _ _ (by decide))
      (pow_L_2TAG_PACKET_46_0_2_descends r hr cpu _)

theorem pow_L_2TAG_PACKET_52_0_2_descends (r : Label → Nat) (hr : ∀ b, ∀ c ∈ succ b, r c < r b)
    (cpu : Cpu) (s : Machine) :
    Descends r .L_2TAG_PACKET_52_0_2 (L_2TAG_PACKET_52_0_2 cpu s).trace s.trace := by
  rw [pow_L_2TAG_PACKET_52_0_2_eq]
  · exact descends_step _ _ .B1_5 _ _ _ (by rw [pow_L_2TAG_PACKET_52_0_2_1_trace]) (hr _ _ (by decide))
      (pow_B1_5_descends r hr cpu _)

theorem pow_L_2TAG_PACKET_3_0_2_descends (r : Label → Nat) (hr : ∀ b, ∀ c ∈ succ b, r c < r b)
    (cpu : Cpu) (s : Machine) :
    Descends r .L_2TAG_PACKET_3_0_2 (L_2TAG_PACKET_3_0_2 cpu s).trace s.trace := by
  rw [pow_L_2TAG_PACKET_3_0_2_eq]
  · exact descends_step _ _ .L_2TAG_PACKET_4_0_2 _ _ _ (by rw [pow_L_2TAG_PACKET_3_0_2_1_trace]) (hr _ _ (by decide))
      (pow_L_2TAG_PACKET_4_0_2_descends r hr cpu _)

theorem pow_L_2TAG_PACKET_2_0_2_descends (r : Label → Nat) (hr : ∀ b, ∀ c ∈ succ b, r c < r b)
    (cpu : Cpu) (s : Machine) :
    Descends r .L_2TAG_PACKET_2_0_2 (L_2TAG_PACKET_2_0_2 cpu s).trace s.trace := by
  rw [pow_L_2TAG_PACKET_2_0_2_eq]
  split_ifs
  · exact descends_step _ _ .L_2TAG_PACKET_3_0_2 _ _ _ (by rw [pow_L_2TAG_PACKET_2_0_2_1_trace]) (hr _ _ (by decide))
      (pow_L_2TAG_PACKET_3_0_2_descends r hr cpu _)
  · exact descends_step _ _ .L_2TAG_PACKET_45_0_2 _ _ _ (by rw [pow_L_2TAG_PACKET_2_0_2_2_trace, pow_L_2TAG_PACKET_2_0_2_1_trace]) (hr _ _ (by decide))
      (pow_L_2TAG_PACKET_45_0_2_descends r hr cpu _)
  · exact descends_step _ _ .L_2TAG_PACKET_51_0_2 _ _ _ (by rw [pow_L_2TAG_PACKET_2_0_2_3_trace, pow_L_2TAG_PACKET_2_0_2_2_trace, pow_L_2TAG_PACKET_2_0_2_1_trace]) (hr _ _ (by decide))
      (pow_L_2TAG_PACKET_51_0_2_descends r hr cpu _)
  · exact descends_step _ _ .L_2TAG_PACKET_12_0_2 _ _ _ (by rw [pow_L_2TAG_PACKET_2_0_2_4_trace, pow_L_2TAG_PACKET_2_0_2_3_trace, pow_L_2TAG_PACKET_2_0_2_2_trace, pow_L_2TAG_PACKET_2_0_2_1_trace]) (hr _ _ (by decide))
      (pow_L_2TAG_PACKET_12_0_2_descends r hr cpu _)
  · exact descends_step _ _ .L_2TAG_PACKET_13_0_2 _ _ _ (by rw [pow_L_2TAG_PACKET_2_0_2_5_trace, pow_L_2TAG_PACKET_2_0_2_4_trace, pow_L_2TAG_PACKET_2_0_2_3_trace, pow_L_2TAG_PACKET_2_0_2_2_trace, pow_L_2TAG_PACKET_2_0_2_1_trace]) (hr _ _ (by decide))
      (pow_L_2TAG_PACKET_13_0_2_descends r hr cpu _)
  · exact descends_step _ _ .L_2TAG_PACKET_14_0_2 _ _ _ (by rw [pow_L_2TAG_PACKET_2_0_2_6_trace, pow_L_2TAG_PACKET_2_0_2_5_trace, pow_L_2TAG_PACKET_2_0_2_4_trace, pow_L_2TAG_PACKET_2_0_2_3_trace, pow_L_2TAG_PACKET_2_0_2_2_trace, pow_L_2TAG_PACKET_2_0_2_1_trace]) (hr _ _ (by decide))
      (pow_L_2TAG_PACKET_14_0_2_descends r hr cpu _)
  · exact descends_step _ _ .L_2TAG_PACKET_52_0_2 _ _ _ (by rw [pow_L_2TAG_PACKET_2_0_2_7_trace, pow_L_2TAG_PACKET_2_0_2_6_trace, pow_L_2TAG_PACKET_2_0_2_5_trace, pow_L_2TAG_PACKET_2_0_2_4_trace, pow_L_2TAG_PACKET_2_0_2_3_trace, pow_L_2TAG_PACKET_2_0_2_2_trace, pow_L_2TAG_PACKET_2_0_2_1_trace]) (hr _ _ (by decide))
      (pow_L_2TAG_PACKET_52_0_2_descends r hr cpu _)

theorem pow_L_2TAG_PACKET_1_0_2_descends (r : Label → Nat) (hr : ∀ b, ∀ c ∈ succ b, r c < r b)
    (cpu : Cpu) (s : Machine) :
    Descends r .L_2TAG_PACKET_1_0_2 (L_2TAG_PACKET_1_0_2 cpu s).trace s.trace := by
  rw [pow_L_2TAG_PACKET_1_0_2_eq]
  split_ifs
  · exact descends_step _ _ .L_2TAG_PACKET_2_0_2 _ _ _ (by rw [pow_L_2TAG_PACKET_1_0_2_1_trace]) (hr _ _ (by decide))
      (pow_L_2TAG_PACKET_2_0_2_descends r hr cpu _)
  · exact descends_step _ _ .L_2TAG_PACKET_3_0_2 _ _ _ (by rw [pow_L_2TAG_PACKET_1_0_2_2_trace, pow_L_2TAG_PACKET_1_0_2_1_trace]) (hr _ _ (by decide))
      (pow_L_2TAG_PACKET_3_0_2_descends r hr cpu _)

theorem pow_L_2TAG_PACKET_35_0_2_descends (r : Label → Nat) (hr : ∀ b, ∀ c ∈ succ b, r c < r b)
    (cpu : Cpu) (s : Machine) :
    Descends r .L_2TAG_PACKET_35_0_2 (L_2TAG_PACKET_35_0_2 cpu s).trace s.trace := by
  rw [pow_L_2TAG_PACKET_35_0_2_eq]
  split_ifs
  · exact descends_step _ _ .L_2TAG_PACKET_8_0_2 _ _ _ (by rw [pow_L_2TAG_PACKET_35_0_2_1_trace]) (hr _ _ (by decide))
      (pow_L_2TAG_PACKET_8_0_2_descends r hr cpu _)
  · exact descends_step _ _ .L_2TAG_PACKET_1_0_2 _ _ _ (by rw [pow_L_2TAG_PACKET_35_0_2_2_trace, pow_L_2TAG_PACKET_35_0_2_1_trace]) (hr _ _ (by decide))
      (pow_L_2TAG_PACKET_1_0_2_descends r hr cpu _)

theorem pow_L_2TAG_PACKET_34_0_2_descends (r : Label → Nat) (hr : ∀ b, ∀ c ∈ succ b, r c < r b)
    (cpu : Cpu) (s : Machine) :
    Descends r .L_2TAG_PACKET_34_0_2 (L_2TAG_PACKET_34_0_2 cpu s).trace s.trace := by
  rw [pow_L_2TAG_PACKET_34_0_2_eq]
  · exact descends_step _ _ .L_2TAG_PACKET_17_0_2 _ _ _ (by rw [pow_L_2TAG_PACKET_34_0_2_1_trace]) (hr _ _ (by decide))
      (pow_L_2TAG_PACKET_17_0_2_descends r hr cpu _)

theorem pow_L_2TAG_PACKET_10_0_2_descends (r : Label → Nat) (hr : ∀ b, ∀ c ∈ succ b, r c < r b)
    (cpu : Cpu) (s : Machine) :
    Descends r .L_2TAG_PACKET_10_0_2 (L_2TAG_PACKET_10_0_2 cpu s).trace s.trace := by
  rw [pow_L_2TAG_PACKET_10_0_2_eq]
  split_ifs
  · exact descends_step _ _ .L_2TAG_PACKET_9_0_2 _ _ _ (by rw [pow_L_2TAG_PACKET_10_0_2_1_trace]) (hr _ _ (by decide))
      (pow_L_2TAG_PACKET_9_0_2_descends r hr cpu _)
  · exact descends_step _ _ .L_2TAG_PACKET_4_0_2 _ _ _ (by rw [pow_L_2TAG_PACKET_10_0_2_2_trace, pow_L_2TAG_PACKET_10_0_2_1_trace]) (hr _ _ (by decide))
      (pow_L_2TAG_PACKET_4_0_2_descends r hr cpu _)

theorem pow_L_2TAG_PACKET_36_0_2_descends (r : Label → Nat) (hr : ∀ b, ∀ c ∈ succ b, r c < r b)
    (cpu : Cpu) (s : Machine) :
    Descends r .L_2TAG_PACKET_36_0_2 (L_2TAG_PACKET_36_0_2 cpu s).trace s.trace := by
  rw [pow_L_2TAG_PACKET_36_0_2_eq]
  split_ifs
  · exact descends_step _ _ .L_2TAG_PACKET_10_0_2 _ _ _ (by rw [pow_L_2TAG_PACKET_36_0_2_1_trace]) (hr _ _ (by decide))
      (pow_L_2TAG_PACKET_10_0_2_descends r hr cpu _)
  · exact descends_step _ _ .L_2TAG_PACKET_1_0_2 _ _ _ (by rw [pow_L_2TAG_PACKET_36_0_2_2_trace, pow_L_2TAG_PACKET_36_0_2_1_trace]) (hr _ _ (by decide))
      (pow_L_2TAG_PACKET_1_0_2_descends r hr cpu _)

theorem pow_L_2TAG_PACKET_33_0_2_descends (r : Label → Nat) (hr : ∀ b, ∀ c ∈ succ b, r c < r b)
    (cpu : Cpu) (s : Machine) :
    Descends r .L_2TAG_PACKET_33_0_2 (L_2TAG_PACKET_33_0_2 cpu s).trace s.trace := by
  rw [pow_L_2TAG_PACKET_33_0_2_eq]
  split_ifs
  · exact descends_step _ _ .L_2TAG_PACKET_35_0_2 _ _ _ (by rw [pow_L_2TAG_PACKET_33_0_2_1_trace]) (hr _ _ (by decide))
      (pow_L_2TAG_PACKET_35_0_2_descends r hr cpu _)
  · exact descends_step _ _ .L_2TAG_PACKET_36_0_2 _ _ _ (by rw [pow_L_2TAG_PACKET_33_0_2_2_trace, pow_L_2TAG_PACKET_33_0_2_1_trace]) (hr _ _ (by decide))
      (pow_L_2TAG_PACKET_36_0_2_descends r hr cpu _)

theorem pow_L_2TAG_PACKET_32_0_2_descends (r : Label → Nat) (hr : ∀ b, ∀ c ∈ succ b, r c < r b)
    (cpu : Cpu) (s : Machine) :
    Descends r .L_2TAG_PACKET_32_0_2 (L_2TAG_PACKET_32_0_2 cpu s).trace s.trace := by
  rw [pow_L_2TAG_PACKET_32_0_2_eq]
  split_ifs
  · exact descends_step _ _ .L_2TAG_PACKET_33_0_2 _ _ _ (by rw [pow_L_2TAG_PACKET_32_0_2_1_trace]) (hr _ _ (by decide))
      (pow_L_2TAG_PACKET_33_0_2_descends r hr cpu _)
  · exact descends_step _ _ .L_2TAG_PACKET_34_0_2 _ _ _ (by rw [pow_L_2TAG_PACKET_32_0_2_2_trace, pow_L_2TAG_PACKET_32_0_2_1_trace]) (hr _ _ (by decide))
      (pow_L_2TAG_PACKET_34_0_2_descends r hr cpu _)
  · exact descends_step _ _ .L_2TAG_PACKET_35_0_2 _ _ _ (by rw [pow_L_2TAG_PACKET_32_0_2_3_trace, pow_L_2TAG_PACKET_32_0_2_2_trace, pow_L_2TAG_PACKET_32_0_2_1_trace]) (hr _ _ (by decide))
      (pow_L_2TAG_PACKET_35_0_2_descends r hr cpu _)
  · exact descends_step _ _ .L_2TAG_PACKET_36_0_2 _ _ _ (by rw [pow_L_2TAG_PACKET_32_0_2_4_trace, pow_L_2TAG_PACKET_32_0_2_3_trace, pow_L_2TAG_PACKET_32_0_2_2_trace, pow_L_2TAG_PACKET_32_0_2_1_trace]) (hr _ _ (by decide))
      (pow_L_2TAG_PACKET_36_0_2_descends r hr cpu _)

theorem pow_L_2TAG_PACKET_31_0_2_descends (r : Label → Nat) (hr : ∀ b, ∀ c ∈ succ b, r c < r b)
    (cpu : Cpu) (s : Machine) :
    Descends r .L_2TAG_PACKET_31_0_2 (L_2TAG_PACKET_31_0_2 cpu s).trace s.trace := by
  rw [pow_L_2TAG_PACKET_31_0_2_eq]
  · exact descends_step _ _ .B1_5 _ _ _ (by rw [pow_L_2TAG_PACKET_31_0_2_1_trace]) (hr _ _ (by decide))
      (pow_B1_5_descends r hr cpu _)

theorem pow_L_2TAG_PACKET_30_0_2_descends (r : Label → Nat) (hr : ∀ b, ∀ c ∈ succ b, r c < r b)
    (cpu : Cpu) (s : Machine) :
    Descends r .L_2TAG_PACKET_30_0_2 (L_2TAG_PACKET_30_0_2 cpu s).trace s.trace := by
  rw [pow_L_2TAG_PACKET_30_0_2_eq]
  split_ifs
  · exact descends_step _ _ .L_2TAG_PACKET_31_0_2 _ _ _ (by rw [pow_L_2TAG_PACKET_30_0_2_1_trace]) (hr _ _ (by decide))
      (pow_L_2TAG_PACKET_31_0_2_descends r hr cpu _)
  · exact descends_step _ _ .B1_5 _ _ _ (by rw [pow_L_2TAG_PACKET_30_0_2_2_trace, pow_L_2TAG_PACKET_30_0_2_1_trace]) (hr _ _ (by decide))
      (pow_B1_5_descends r hr cpu _)

theorem pow_L_2TAG_PACKET_29_0_2_descends (r : Label → Nat) (hr : ∀ b, ∀ c ∈ succ b, r c < r b)
    (cpu : Cpu) (s : Machine) :
    Descends r .L_2TAG_PACKET_29_0_2 (L_2TAG_PACKET_29_0_2 cpu s).trace s.trace := by
  rw [pow_L_2TAG_PACKET_29_0_2_eq]
  split_ifs
  · exact descends_step _ _ .L_2TAG_PACKET_30_0_2 _ _ _ (by rw [pow_L_2TAG_PACKET_29_0_2_1_trace]) (hr _ _ (by decide))
      (pow_L_2TAG_PACKET_30_0_2_descends r hr cpu _)
  · exact descends_step _ _ .L_2TAG_PACKET_30_0_2 _ _ _ (by rw [pow_L_2TAG_PACKET_29_0_2_2_trace, pow_L_2TAG_PACKET_29_0_2_1_trace]) (hr _ _ (by decide))
      (pow_L_2TAG_PACKET_30_0_2_descends r hr cpu _)
  · exact descends_step _ _ .B1_5 _ _ _ (by rw [pow_L_2TAG_PACKET_29_0_2_3_trace, pow_L_2TAG_PACKET_29_0_2_2_trace, pow_L_2TAG_PACKET_29_0_2_1_trace]) (hr _ _ (by decide))
      (pow_B1_5_descends r hr cpu _)

theorem pow_L_2TAG_PACKET_28_0_2_descends (r : Label → Nat) (hr : ∀ b, ∀ c ∈ succ b, r c < r b)
    (cpu : Cpu) (s : Machine) :
    Descends r .L_2TAG_PACKET_28_0_2 (L_2TAG_PACKET_28_0_2 cpu s).trace s.trace := by
  rw [pow_L_2TAG_PACKET_28_0_2_eq]
  split_ifs
  · exact descends_step _ _ .L_2TAG_PACKET_29_0_2 _ _ _ (by rw [pow_L_2TAG_PACKET_28_0_2_1_trace]) (hr _ _ (by decide))
      (pow_L_2TAG_PACKET_29_0_2_descends r hr cpu _)
  · exact descends_step _ _ .B1_5 _ _ _ (by rw [pow_L_2TAG_PACKET_28_0_2_2_trace, pow_L_2TAG_PACKET_28_0_2_1_trace]) (hr _ _ (by decide))
      (pow_B1_5_descends r hr cpu _)

theorem pow_L_2TAG_PACKET_7_0_2_descends (r : Label → Nat) (hr : ∀ b, ∀ c ∈ succ b, r c < r b)
    (cpu : Cpu) (s : Machine) :
    Descends r .L_2TAG_PACKET_7_0_2 (L_2TAG_PACKET_7_0_2 cpu s).trace s.trace := by
  rw [pow_L_2TAG_PACKET_7_0_2_eq]
  split_ifs
  · exact descends_step _ _ .L_2TAG_PACKET_9_0_2 _ _ _ (by rw [pow_L_2TAG_PACKET_7_0_2_1_trace]) (hr _ _ (by decide))
      (pow_L_2TAG_PACKET_9_0_2_descends r hr cpu _)
  · exact descends_step _ _ .L_2TAG_PACKET_37_0_2 _ _ _ (by rw [pow_L_2TAG_PACKET_7_0_2_2_trace, pow_L_2TAG_PACKET_7_0_2_1_trace]) (hr _ _ (by decide))
      (pow_L_2TAG_PACKET_37_0_2_descends r hr cpu _)
  · exact descends_step _ _ .L_2TAG_PACKET_28_0_2 _ _ _ (by rw [pow_L_2TAG_PACKET_7_0_2_3_trace, pow_L_2TAG_PACKET_7_0_2_2_trace, pow_L_2TAG_PACKET_7_0_2_1_trace]) (hr _ _ (by decide))
      (pow_L_2TAG_PACKET_28_0_2_descends r hr cpu _)
  · exact descends_step _ _ .L_2TAG_PACKET_35_0_2 _ _ _ (by rw [pow_L_2TAG_PACKET_7_0_2_4_trace, pow_L_2TAG_PACKET_7_0_2_3_trace, pow_L_2TAG_PACKET_7_0_2_2_trace, pow_L_2TAG_PACKET_7_0_2_1_trace]) (hr _ _ (by decide))
      (pow_L_2TAG_PACKET_35_0_2_descends r hr cpu _)
  · exact descends_step _ _ .L_2TAG_PACKET_32_0_2 _ _ _ (by rw [pow_L_2TAG_PACKET_7_0_2_5_trace, pow_L_2TAG_PACKET_7_0_2_4_trace, pow_L_2TAG_PACKET_7_0_2_3_trace, pow_L_2TAG_PACKET_7_0_2_2_trace, pow_L_2TAG_PACKET_7_0_2_1_trace]) (hr _ _ (by decide))
      (pow_L_2TAG_PACKET_32_0_2_descends r hr cpu _)
  · exact descends_step _ _ .L_2TAG_PACKET_34_0_2 _ _ _ (by rw [pow_L_2TAG_PACKET_7_0_2_6_trace, pow_L_2TAG_PACKET_7_0_2_5_trace, pow_L_2TAG_PACKET_7_0_2_4_trace, pow_L_2TAG_PACKET_7_0_2_3_trace, pow_L_2TAG_PACKET_7_0_2_2_trace, pow_L_2TAG_PACKET_7_0_2_1_trace]) (hr _ _ (by decide))
      (pow_L_2TAG_PACKET_34_0_2_descends r hr cpu _)
  · exact descends_step _ _ .L_2TAG_PACKET_34_0_2 _ _ _ (by rw [pow_L_2TAG_PACKET_7_0_2_7_trace, pow_L_2TAG_PACKET_7_0_2_6_trace, pow_L_2TAG_PACKET_7_0_2_5_trace, pow_L_2TAG_PACKET_7_0_2_4_trace, pow_L_2TAG_PACKET_7_0_2_3_trace, pow_L_2TAG_PACKET_7_0_2_2_trace, pow_L_2TAG_PACKET_7_0_2_1_trace]) (hr _ _ (by decide))
      (pow_L_2TAG_PACKET_34_0_2_descends r hr cpu _)
  · exact descends_step _ _ .L_2TAG_PACKET_35_0_2 _ _ _ (by rw [pow_L_2TAG_PACKET_7_0_2_8_trace, pow_L_2TAG_PACKET_7_0_2_7_trace, pow_L_2TAG_PACKET_7_0_2_6_trace, pow_L_2TAG_PACKET_7_0_2_5_trace, pow_L_2TAG_PACKET_7_0_2_4_trace, pow_L_2TAG_PACKET_7_0_2_3_trace, pow_L_2TAG_PACKET_7_0_2_2_trace, pow_L_2TAG_PACKET_7_0_2_1_trace]) (hr _ _ (by decide))
      (pow_L_2TAG_PACKET_35_0_2_descends r hr cpu _)
  · exact descends_step _ _ .L_2TAG_PACKET_36_0_2 _ _ _ (by rw [pow_L_2TAG_PACKET_7_0_2_9_trace, pow_L_2TAG_PACKET_7_0_2_8_trace, pow_L_2TAG_PACKET_7_0_2_7_trace, pow_L_2TAG_PACKET_7_0_2_6_trace, pow_L_2TAG_PACKET_7_0_2_5_trace, pow_L_2TAG_PACKET_7_0_2_4_trace, pow_L_2TAG_PACKET_7_0_2_3_trace, pow_L_2TAG_PACKET_7_0_2_2_trace, pow_L_2TAG_PACKET_7_0_2_1_trace]) (hr _ _ (by decide))
      (pow_L_2TAG_PACKET_36_0_2_descends r hr cpu _)

theorem pow_L_2TAG_PACKET_19_0_2_descends (r : Label → Nat) (hr : ∀ b, ∀ c ∈ succ b, r c < r b)
    (cpu : Cpu) (s : Machine) :
    Descends r .L_2TAG_PACKET_19_0_2 (L_2TAG_PACKET_19_0_2 cpu s).trace s.trace := by
  rw [pow_L_2TAG_PACKET_19_0_2_eq]
  · exact descends_step _ _ .B1_5 _ _ _ (by rw [pow_L_2TAG_PACKET_19_0_2_1_trace]) (hr _ _ (by decide))
      (pow_B1_5_descends r hr cpu _)

theorem pow_L_2TAG_PACKET_24_0_2_descends (r : Label → Nat) (hr : ∀ b, ∀ c ∈ succ b, r c < r b)
    (cpu : Cpu) (s : Machine) :
    Descends r .L_2TAG_PACKET_24_0_2 (L_2TAG_PACKET_24_0_2 cpu s).trace s.trace := by
  rw [pow_L_2TAG_PACKET_24_0_2_eq]
  split_ifs
  · exact descends_step _ _ .L_2TAG_PACKET_22_0_2 _ _ _ (by rw [pow_L_2TAG_PACKET_24_0_2_1_trace]) (hr _ _ (by decide))
      (pow_L_2TAG_PACKET_22_0_2_descends r hr cpu _)
  · exact descends_step _ _ .B1_5 _ _ _ (by rw [pow_L_2TAG_PACKET_24_0_2_2_trace, pow_L_2TAG_PACKET_24_0_2_1_trace]) (hr _ _ (by decide))
      (pow_B1_5_descends r hr cpu _)

theorem pow_L_2TAG_PACKET_27_0_2_descends (r : Label → Nat) (hr : ∀ b, ∀ c ∈ succ b, r c < r b)
    (cpu : Cpu) (s : Machine) :
    Descends r .L_2TAG_PACKET_27_0_2 (L_2TAG_PACKET_27_0_2 cpu s).trace s.trace := by
  rw [pow_L_2TAG_PACKET_27_0_2_eq]
  · exact descends_step _ _ .B1_5 _ _ _ (by rw [pow_L_2TAG_PACKET_27_0_2_1_trace]) (hr _ _ (by decide))
      (pow_B1_5_descends r hr cpu _)

theorem pow_L_2TAG_PACKET_25_0_2_descends (r : Label → Nat) (hr : ∀ b, ∀ c ∈ succ b, r c < r b)
    (cpu : Cpu) (s : Machine) :
    Descends r .L_2TAG_PACKET_25_0_2 (L_2TAG_PACKET_25_0_2 cpu s).trace s.trace := by
  rw [pow_L_2TAG_PACKET_25_0_2_eq]
  split_ifs
  · exact descends_step _ _ .L_2TAG_PACKET_27_0_2 _ _ _ (by rw [pow_L_2TAG_PACKET_25_0_2_1_trace]) (hr _ _ (by decide))
      (pow_L_2TAG_PACKET_27_0_2_descends r hr cpu _)
  · exact descends_step _ _ .B1_5 _ _ _ (by rw [pow_L_2TAG_PACKET_25_0_2_2_trace, pow_L_2TAG_PACKET_25_0_2_1_trace]) (hr _ _ (by decide))
      (pow_B1_5_descends r hr cpu _)

theorem pow_L_2TAG_PACKET_26_0_2_descends (r : Label → Nat) (hr : ∀ b, ∀ c ∈ succ b, r c < r b)
    (cpu : Cpu) (s : Machine) :
    Descends r .L_2TAG_PACKET_26_0_2 (L_2TAG_PACKET_26_0_2 cpu s).trace s.trace := by
  rw [pow_L_2TAG_PACKET_26_0_2_eq]
  split_ifs
  · exact descends_step _ _ .L_2TAG_PACKET_24_0_2 _ _ _ (by rw [pow_L_2TAG_PACKET_26_0_2_1_trace]) (hr _ _ (by decide))
      (pow_L_2TAG_PACKET_24_0_2_descends r hr cpu _)
  · exact descends_step _ _ .L_2TAG_PACKET_25_0_2 _ _ _ (by rw [pow_L_2TAG_PACKET_26_0_2_2_trace, pow_L_2TAG_PACKET_26_0_2_1_trace]) (hr _ _ (by decide))
      (pow_L_2TAG_PACKET_25_0_2_descends r hr cpu _)

theorem pow_L_2TAG_PACKET_23_0_2_descends (r : Label → Nat) (hr : ∀ b, ∀ c ∈ succ b, r c < r b)
    (cpu : Cpu) (s : Machine) :
    Descends r .L_2TAG_PACKET_23_0_2 (L_2TAG_PACKET_23_0_2 cpu s).trace s.trace := by
  rw [pow_L_2TAG_PACKET_23_0_2_eq]
  split_ifs
  · exact descends_step _ _ .L_2TAG_PACKET_24_0_2 _ _ _ (by rw [pow_L_2TAG_PACKET_23_0_2_1_trace]) (hr _ _ (by decide))
      (pow_L_2TAG_PACKET_24_0_2_descends r hr cpu _)
  · exact descends_step _ _ .L_2TAG_PACKET_25_0_2 _ _ _ (by rw [pow_L_2TAG_PACKET_23_0_2_2_trace, pow_L_2TAG_PACKET_23_0_2_1_trace]) (hr _ _ (by decide))
      (pow_L_2TAG_PACKET_25_0_2_descends r hr cpu _)
  · exact descends_step _ _ .L_2TAG_PACKET_24_0_2 _ _ _ (by rw [pow_L_2TAG_PACKET_23_0_2_3_trace, pow_L_2TAG_PACKET_23_0_2_2_trace, pow_L_2TAG_PACKET_23_0_2_1_trace]) (hr _ _ (by decide))
      (pow_L_2TAG_PACKET_24_0_2_descends r hr cpu _)

theorem pow_L_2TAG_PACKET_21_0_2_descends (r : Label → Nat) (hr : ∀ b, ∀ c ∈ succ b, r c < r b)
    (cpu : Cpu) (s : Machine) :
    Descends r .L_2TAG_PACKET_21_0_2 (L_2TAG_PACKET_21_0_2 cpu s).trace s.trace := by
  rw [pow_L_2TAG_PACKET_21_0_2_eq]
  split_ifs
  · exact descends_step _ _ .L_2TAG_PACKET_24_0_2 _ _ _ (by rw [pow_L_2TAG_PACKET_21_0_2_1_trace]) (hr _ _ (by decide))
      (pow_L_2TAG_PACKET_24_0_2_descends r hr cpu _)
  · exact descends_step _ _ .L_2TAG_PACKET_26_0_2 _ _ _ (by rw [pow_L_2TAG_PACKET_21_0_2_2_trace, pow_L_2TAG_PACKET_21_0_2_1_trace]) (hr _ _ (by decide))
      (pow_L_2TAG_PACKET_26_0_2_descends r hr cpu _)
  · exact descends_step _ _ .L_2TAG_PACKET_23_0_2 _ _ _ (by rw [pow_L_2TAG_PACKET_21_0_2_3_trace, pow_L_2TAG_PACKET_21_0_2_2_trace, pow_L_2TAG_PACKET_21_0_2_1_trace]) (hr _ _ (by decide))
      (pow_L_2TAG_PACKET_23_0_2_descends r hr cpu _)
  · exact descends_step _ _ .L_2TAG_PACKET_24_0_2 _ _ _ (by rw [pow_L_2TAG_PACKET_21_0_2_4_trace, pow_L_2TAG_PACKET_21_0_2_3_trace, pow_L_2TAG_PACKET_21_0_2_2_trace, pow_L_2TAG_PACKET_21_0_2_1_trace]) (hr _ _ (by decide))
      (pow_L_2TAG_PACKET_24_0_2_descends r hr cpu _)
  · exact descends_step _ _ .L_2TAG_PACKET_24_0_2 _ _ _ (by rw [pow_L_2TAG_PACKET_21_0_2_5_trace, pow_L_2TAG_PACKET_21_0_2_4_trace, pow_L_2TAG_PACKET_21_0_2_3_trace, pow_L_2TAG_PACKET_21_0_2_2_trace, pow_L_2TAG_PACKET_21_0_2_1_trace]) (hr _ _ (by decide))
      (pow_L_2TAG_PACKET_24_0_2_descends r hr cpu _)
  · exact descends_step _ _ .L_2TAG_PACKET_24_0_2 _ _ _ (by rw [pow_L_2TAG_PACKET_21_0_2_6_trace, pow_L_2TAG_PACKET_21_0_2_5_trace, pow_L_2TAG_PACKET_21_0_2_4_trace, pow_L_2TAG_PACKET_21_0_2_3_trace, pow_L_2TAG_PACKET_21_0_2_2_trace, pow_L_2TAG_PACKET_21_0_2_1_trace]) (hr _ _ (by decide))
      (pow_L_2TAG_PACKET_24_0_2_descends r hr cpu _)
  · exact descends_step _ _ .L_2TAG_PACKET_25_0_2 _ _ _ (by rw [pow_L_2TAG_PACKET_21_0_2_7_trace, pow_L_2TAG_PACKET_21_0_2_6_trace, pow_L_2TAG_PACKET_21_0_2_5_trace, pow_L_2TAG_PACKET_21_0_2_4_trace, pow_L_2TAG_PACKET_21_0_2_3_trace, pow_L_2TAG_PACKET_21_0_2_2_trace, pow_L_2TAG_PACKET_21_0_2_1_trace]) (hr _ _ (by decide))
      (pow_L_2TAG_PACKET_25_0_2_descends r hr cpu _)

theorem pow_L_2TAG_PACKET_20_0_2_descends (r : Label → Nat) (hr : ∀ b, ∀ c ∈ succ b, r c < r b)
    (cpu : Cpu) (s : Machine) :
    Descends r .L_2TAG_PACKET_20_0_2 (L_2TAG_PACKET_20_0_2 cpu s).trace s.trace := by
  rw [pow_L_2TAG_PACKET_20_0_2_eq]
  split_ifs
  · exact descends_step _ _ .L_2TAG_PACKET_21_0_2 _ _ _ (by rw [pow_L_2TAG_PACKET_20_0_2_1_trace]) (hr _ _ (by decide))
      (pow_L_2TAG_PACKET_21_0_2_descends r hr cpu _)
  · exact descends_step _ _ .L_2TAG_PACKET_22_0_2 _ _ _ (by rw [pow_L_2TAG_PACKET_20_0_2_2_trace, pow_L_2TAG_PACKET_20_0_2_1_trace]) (hr _ _ (by decide))
      (pow_L_2TAG_PACKET_22_0_2_descends r hr cpu _)
  · exact descends_step _ _ .B1_5 _ _ _ (by rw [pow_L_2TAG_PACKET_20_0_2_3_trace, pow_L_2TAG_PACKET_20_0_2_2_trace, pow_L_2TAG_PACKET_20_0_2_1_trace]) (hr _ _ (by decide))
      (pow_B1_5_descends r hr cpu _)

theorem pow_L_2TAG_PACKET_15_0_2_descends (r : Label → Nat) (hr : ∀ b, ∀ c ∈ succ b, r c < r b)
    (cpu : Cpu) (s : Machine) :
    Descends r .L_2TAG_PACKET_15_0_2 (L_2TAG_PACKET_15_0_2 cpu s).trace s.trace := by
  rw [pow_L_2TAG_PACKET_15_0_2_eq]
  split_ifs
  · exact descends_step _ _ .L_2TAG_PACKET_19_0_2 _ _ _ (by rw [pow_L_2TAG_PACKET_15_0_2_1_trace]) (hr _ _ (by decide))
      (pow_L_2TAG_PACKET_19_0_2_descends r hr cpu _)
  · exact descends_step _ _ .L_2TAG_PACKET_20_0_2 _ _ _ (by rw [pow_L_2TAG_PACKET_15_0_2_2_trace, pow_L_2TAG_PACKET_15_0_2_1_trace]) (hr _ _ (by decide))
      (pow_L_2TAG_PACKET_20_0_2_descends r hr cpu _)
  · exact descends_step _ _ .L_2TAG_PACKET_18_0_2 _ _ _ (by rw [pow_L_2TAG_PACKET_15_0_2_3_trace, pow_L_2TAG_PACKET_15_0_2_2_trace, pow_L_2TAG_PACKET_15_0_2_1_trace]) (hr _ _ (by decide))
      (pow_L_2TAG_PACKET_18_0_2_descends r hr cpu _)
  · exact descends_step _ _ .L_2TAG_PACKET_20_0_2 _ _ _ (by rw [pow_L_2TAG_PACKET_15_0_2_4_trace, pow_L_2TAG_PACKET_15_0_2_3_trace, pow_L_2TAG_PACKET_15_0_2_2_trace, pow_L_2TAG_PACKET_15_0_2_1_trace]) (hr _ _ (by decide))
      (pow_L_2TAG_PACKET_20_0_2_descends r hr cpu _)

theorem pow_L_2TAG_PACKET_16_0_2_descends (r : Label → Nat) (hr : ∀ b, ∀ c ∈ succ b, r c < r b)
    (cpu : Cpu) (s : Machine) :
    Descends r .L_2TAG_PACKET_16_0_2 (L_2TAG_PACKET_16_0_2 cpu s).trace s.trace := by
  rw [pow_L_2TAG_PACKET_16_0_2_eq]
  · exact descends_step _ _ .L_2TAG_PACKET_17_0_2 _ _ _ (by rw [pow_L_2TAG_PACKET_16_0_2_1_trace]) (hr _ _ (by decide))
      (pow_L_2TAG_PACKET_17_0_2_descends r hr cpu _)

theorem pow_L_2TAG_PACKET_6_0_2_descends (r : Label → Nat) (hr : ∀ b, ∀ c ∈ succ b, r c < r b)
    (cpu : Cpu) (s : Machine) :
    Descends r .L_2TAG_PACKET_6_0_2 (L_2TAG_PACKET_6_0_2 cpu s).trace s.trace := by
  rw [pow_L_2TAG_PACKET_6_0_2_eq]
  split_ifs
  · exact descends_step _ _ .L_2TAG_PACKET_15_0_2 _ _ _ (by rw [pow_L_2TAG_PACKET_6_0_2_1_trace]) (hr _ _ (by decide))
      (pow_L_2TAG_PACKET_15_0_2_descends r hr cpu _)
  · exact descends_step _ _ .L_2TAG_PACKET_16_0_2 _ _ _ (by rw [pow_L_2TAG_PACKET_6_0_2_2_trace, pow_L_2TAG_PACKET_6_0_2_1_trace]) (hr _ _ (by decide))
      (pow_L_2TAG_PACKET_16_0_2_descends r hr cpu _)
  · exact descends_step _ _ .B1_5 _ _ _ (by rw [pow_L_2TAG_PACKET_6_0_2_3_trace, pow_L_2TAG_PACKET_6_0_2_2_trace, pow_L_2TAG_PACKET_6_0_2_1_trace]) (hr _ _ (by decide))
      (pow_B1_5_descends r hr cpu _)

theorem pow_L_2TAG_PACKET_0_0_2_descends (r : Label → Nat) (hr : ∀ b, ∀ c ∈ succ b, r c < r b)
    (cpu : Cpu) (s : Machine) :
    Descends r .L_2TAG_PACKET_0_0_2 (L_2TAG_PACKET_0_0_2 cpu s).trace s.trace := by
  rw [pow_L_2TAG_PACKET_0_0_2_eq]
  split_ifs
  · exact descends_step _ _ .L_2TAG_PACKET_6_0_2 _ _ _ (by rw [pow_L_2TAG_PACKET_0_0_2_1_trace]) (hr _ _ (by decide))
      (pow_L_2TAG_PACKET_6_0_2_descends r hr cpu _)
  · exact descends_step _ _ .L_2TAG_PACKET_7_0_2 _ _ _ (by rw [pow_L_2TAG_PACKET_0_0_2_2_trace, pow_L_2TAG_PACKET_0_0_2_1_trace]) (hr _ _ (by decide))
      (pow_L_2TAG_PACKET_7_0_2_descends r hr cpu _)
  · exact descends_step _ _ .L_2TAG_PACKET_8_0_2 _ _ _ (by rw [pow_L_2TAG_PACKET_0_0_2_3_trace, pow_L_2TAG_PACKET_0_0_2_2_trace, pow_L_2TAG_PACKET_0_0_2_1_trace]) (hr _ _ (by decide))
      (pow_L_2TAG_PACKET_8_0_2_descends r hr cpu _)

theorem pow_B1_2_descends (r : Label → Nat) (hr : ∀ b, ∀ c ∈ succ b, r c < r b)
    (cpu : Cpu) (s : Machine) :
    Descends r .B1_2 (B1_2 cpu s).trace s.trace := by
  rw [pow_B1_2_eq]
  split_ifs
  · exact descends_step _ _ .L_2TAG_PACKET_0_0_2 _ _ _ (by rw [pow_B1_2_1_trace]) (hr _ _ (by decide))
      (pow_L_2TAG_PACKET_0_0_2_descends r hr cpu _)
  · exact descends_step _ _ .L_2TAG_PACKET_1_0_2 _ _ _ (by rw [pow_B1_2_2_trace, pow_B1_2_1_trace]) (hr _ _ (by decide))
      (pow_L_2TAG_PACKET_1_0_2_descends r hr cpu _)

theorem pow_start_descends (r : Label → Nat) (hr : ∀ b, ∀ c ∈ succ b, r c < r b)
    (cpu : Cpu) (s : Machine) :
    Descends r .start (start cpu s).trace s.trace := by
  rw [pow_start_eq]
  · exact descends_step _ _ .B1_2 _ _ _ (by rw [pow_start_1_trace]) (hr _ _ (by decide))
      (pow_B1_2_descends r hr cpu _)

theorem pow_entry_descends (r : Label → Nat) (hr : ∀ b, ∀ c ∈ succ b, r c < r b)
    (cpu : Cpu) (s : Machine) :
    Descends r .entry (entry cpu s).trace s.trace := by
  rw [pow_entry_eq]
  · exact descends_step _ _ .start _ _ _ (by rw [pow_entry_1_trace]) (hr _ _ (by decide))
      (pow_start_descends r hr cpu _)

end fast_pow

theorem exp_edges_all : ∀ b, ∀ c ∈ fast_exp.succ b, fast_exp.rank c < fast_exp.rank b := by
  intro b
  cases b <;> decide

theorem log_edges_all : ∀ b, ∀ c ∈ fast_log.succ b, fast_log.rank c < fast_log.rank b := by
  intro b
  cases b <;> decide

theorem pow_edges_all : ∀ b, ∀ c ∈ fast_pow.succ b, fast_pow.rank c < fast_pow.rank b := by
  intro b
  cases b <;> decide

end MacroAssembler

namespace MacroAssembler

/-! ### The integer test with the constant `1.5 * 2^52` -/

theorem f64_fields (s e f : Nat) (hs : s ≤ 1) (he : e < 2048) (hf : f < 4503599627370496) :
    f64Sign (s * 2 ^ 63 + (e * 2 ^ 52 + f)) = s ∧ f64Exp (s * 2 ^ 63 + (e * 2 ^ 52 + f)) = e ∧
    f64Man (s * 2 ^ 63 + (e * 2 ^ 52 + f)) = f := by
  simp only [f64Sign, f64Exp, f64Man, Nat.reducePow]
  omega

/-- An integer `1 ≤ ρ < 2^53` is a binary64 number: its pattern has exponent field
`n + 1023` and significand `ρ * 2^(52 - n)`, where `n` is the position of its leading bit. -/
theorem roundPack_int (s ρ : Nat) (h1 : 1 ≤ ρ) (h2 : ρ < 2 ^ 53) :
    ∃ n, n ≤ 52 ∧ 2 ^ n ≤ ρ ∧ ρ < 2 ^ (n + 1) ∧ 2 ^ 52 ≤ ρ * 2 ^ (52 - n) ∧
      ρ * 2 ^ (52 - n) < 2 ^ 53 ∧
      roundPack s ρ 4000 = s * 2 ^ 63 + ((n + 1022) * 2 ^ 52 + ρ * 2 ^ (52 - n)) := by
  have hx : ρ < 2 ^ (2 ^ 12) := Nat.lt_of_lt_of_le h2 (by decide!)
  obtain ⟨a, b⟩ := ilog2Aux_spec 12 ρ h1 hx
  generalize ilog2Aux 12 ρ = n at a b
  have hn : n < 53 := (Nat.pow_lt_pow_iff_right (by decide : 1 < 2)).1 (Nat.lt_of_le_of_lt a h2)
  have e52 : (2 : Nat) ^ 52 = 2 ^ n * 2 ^ (52 - n) := by
    rw [← Nat.pow_add]
    congr 1
    omega
  have e53 : (2 : Nat) ^ 53 = 2 ^ (n + 1) * 2 ^ (52 - n) := by
    rw [← Nat.pow_add]
    congr 1
    omega
  have m1 : 2 ^ 52 ≤ ρ * 2 ^ (52 - n) := by
    rw [e52]
    exact Nat.mul_le_mul_right _ a
  have m2 : ρ * 2 ^ (52 - n) < 2 ^ 53 := by
    rw [e53]
    exact Nat.mul_lt_mul_of_pos_right b (Nat.two_pow_pos _)
  refine ⟨n, by omega, a, b, m1, m2, ?_⟩
  have h := roundPack_of s ρ 4000 n (n + 3948) (ρ * 2 ^ (52 - n)) a b (by omega) (by omega)
    (by
      have e : 4000 - (n + 3948) = 52 - n := by omega
      rw [if_pos (by omega), e])
    (by
      simp only [Nat.reducePow] at m2 ⊢
      omega)
  have e2 : n + 3948 - 2926 = n + 1022 := by omega
  rw [h, e2]

/-- The sum `1.5 * 2^52 + y` for `1 ≤ |y| < 2^51` is `1.5 * 2^52 ± ρ` for an integer `ρ ≥ 1`,
which is `|y|` when `y` is an integer. -/
theorem magic_add (y : Nat) (hE1 : 1023 ≤ f64Exp y) (hE2 : f64Exp y ≤ 1073) :
    ∃ ρ, 1 ≤ ρ ∧ ρ ≤ 2 ^ 51 ∧
      (f64Sig y % 2 ^ (1075 - f64Exp y) = 0 → ρ = f64Sig y / 2 ^ (1075 - f64Exp y)) ∧
      f64Add 0x4338000000000000 y =
        (if f64Sign y = 0 then 0x4338000000000000 + ρ else 0x4338000000000000 - ρ) := by
  have c1 : f64IsNaN 0x4338000000000000 = false := by decide
  have c2 : f64IsInf 0x4338000000000000 = false := by decide
  have c3 : f64Sign 0x4338000000000000 = 0 := by decide
  have c4 : f64Sig 0x4338000000000000 = 6755399441055744 := by decide
  have c5 : f64E 0x4338000000000000 = 1075 := by decide
  have n1 : f64IsNaN y = false := by
    simp only [f64IsNaN, decide_eq_false_iff_not, not_and]
    omega
  have n2 : f64IsInf y = false := by
    simp only [f64IsInf, decide_eq_false_iff_not, not_and]
    omega
  have e1 : f64E y = f64Exp y := by
    simp only [f64E]
    rw [if_neg (by omega)]
  have hm1 : 2 ^ 52 ≤ f64Sig y := by
    simp only [f64Sig]
    rw [if_neg (by omega)]
    omega
  have hm2 : f64Sig y < 2 ^ 53 := by
    simp only [f64Sig, f64Man, Nat.reducePow]
    rw [if_neg (by omega)]
    omega
  have hmin : min 1075 (f64Exp y) = f64Exp y := by omega
  unfold f64Add f64AddCore
  simp only [c1, c2, c3, c4, c5, n1, n2, e1, hmin, Bool.false_eq_true, if_false, Nat.sub_self,
    Nat.pow_zero, Nat.mul_one]
  generalize f64Sig y = m at hm1 hm2 ⊢
  obtain ⟨tt, htt⟩ : ∃ tt, tt = 1075 - f64Exp y := ⟨_, rfl⟩
  have ht2 : 2 ≤ tt := by omega
  have ht52 : tt ≤ 52 := by omega
  have hee : f64Exp y + 2925 = 4000 - tt := by omega
  rw [← htt, hee]
  generalize f64Exp y = E at *
  have hP4 : 2 ^ 2 ≤ 2 ^ tt := Nat.pow_le_pow_right (by decide) ht2
  have hP52 : 2 ^ tt ≤ 2 ^ 52 := Nat.pow_le_pow_right (by decide) ht52
  have hdm := Nat.div_add_mod m (2 ^ tt)
  have hr0 : m % 2 ^ tt < 2 ^ tt := Nat.mod_lt _ (Nat.two_pow_pos tt)
  have hk1 : 1 ≤ m / 2 ^ tt := Nat.div_pos (Nat.le_trans hP52 hm1) (Nat.two_pow_pos tt)
  have hk4 : 2 ^ 2 * (m / 2 ^ tt) ≤ 2 ^ tt * (m / 2 ^ tt) := Nat.mul_le_mul_right _ hP4
  have e52 : (2 : Nat) ^ (52 + tt) = 2 ^ 52 * 2 ^ tt := Nat.pow_add 2 52 tt
  have e53 : (2 : Nat) ^ (52 + tt + 1) = 2 ^ 53 * 2 ^ tt := by
    have : 52 + tt + 1 = 53 + tt := by omega
    rw [this, Nat.pow_add]
  have ehalf : 2 * 2 ^ (tt - 1) = 2 ^ tt := by
    have : tt = tt - 1 + 1 := by omega
    rw [this, Nat.pow_succ, Nat.mul_comm]
    simp
  generalize hk : m / 2 ^ tt = k at *
  generalize hr : m % 2 ^ tt = r0 at *
  generalize hKP : 2 ^ tt * k = KP at *
  generalize hH : 2 ^ (tt - 1) = H at *
  generalize hP : 2 ^ tt = P at *
  simp only [Nat.reducePow] at hm1 hm2 hP4 hP52 hk4 e52 e53
  have hk51 : k < 2251799813685248 := by omega
  by_cases hs : f64Sign y = 0
  · simp only [hs, if_true]
    have hmul : (6755399441055744 + k) * P = 6755399441055744 * P + KP := by
      rw [Nat.add_mul, Nat.mul_comm k P, hKP]
    have hrne := rne_eq (6755399441055744 * P + m) tt (6755399441055744 + k) r0
      (by rw [hP]; omega) (by rw [hP]; exact hr0) (by omega)
    rw [hH] at hrne
    generalize hR : rne (6755399441055744 * P + m) tt = R at hrne
    have hrp := roundPack_of 0 (6755399441055744 * P + m) (4000 - tt) (52 + tt) 4000 R
      (by rw [e52]; omega) (by rw [e53]; omega) (by omega) (by omega)
      (by
        have e : 4000 - (4000 - tt) = tt := by omega
        rw [if_neg (by omega), e, hR])
      (by
        simp only [Nat.reducePow]
        split_ifs at hrne <;> omega)
    refine ⟨R - 6755399441055744, ?_, ?_, ?_, ?_⟩
    · split_ifs at hrne <;> omega
    · simp only [Nat.reducePow]
      split_ifs at hrne <;> omega
    · intro h0
      rw [if_neg (by omega)] at hrne
      omega
    · rw [hrp]
      simp only [Nat.reducePow]
      split_ifs at hrne <;> omega
  · have hs1 : ¬ (0 = f64Sign y) := fun h => hs h.symm
    simp only [hs, hs1, if_false]
    rw [if_pos (by omega)]
    by_cases h0 : r0 = 0
    · have hmul : (6755399441055744 - k) * P = 6755399441055744 * P - KP := by
        rw [Nat.sub_mul, Nat.mul_comm k P, hKP]
      have hrne := rne_eq (6755399441055744 * P - m) tt (6755399441055744 - k) 0
        (by rw [hP]; omega) (by rw [hP]; omega) (by omega)
      rw [hH, if_neg (by omega)] at hrne
      have hrp := roundPack_of 0 (6755399441055744 * P - m) (4000 - tt) (52 + tt) 4000
        (6755399441055744 - k)
        (by rw [e52]; omega) (by rw [e53]; omega) (by omega) (by omega)
        (by
          have e : 4000 - (4000 - tt) = tt := by omega
          rw [if_neg (by omega), e, hrne])
        (by
          simp only [Nat.reducePow]
          omega)
      refine ⟨k, hk1, by simp only [Nat.reducePow]; omega, fun _ => rfl, ?_⟩
      rw [hrp]
      simp only [Nat.reducePow]
      omega
    · have hmul : (6755399441055744 - k - 1) * P = 6755399441055744 * P - KP - P := by
        rw [Nat.sub_mul, Nat.sub_mul, Nat.mul_comm k P, hKP, Nat.one_mul]
      have hrne := rne_eq (6755399441055744 * P - m) tt (6755399441055744 - k - 1) (P - r0)
        (by rw [hP]; omega) (by rw [hP]; omega) (by omega)
      rw [hH] at hrne
      generalize hR : rne (6755399441055744 * P - m) tt = R at hrne
      have hrp := roundPack_of 0 (6755399441055744 * P - m) (4000 - tt) (52 + tt) 4000 R
        (by rw [e52]; omega) (by rw [e53]; omega) (by omega) (by omega)
        (by
          have e : 4000 - (4000 - tt) = tt := by omega
          rw [if_neg (by omega), e, hR])
        (by
          simp only [Nat.reducePow]
          split_ifs at hrne <;> omega)
      refine ⟨6755399441055744 - R, ?_, ?_, ?_, ?_⟩
      · split_ifs at hrne <;> omega
      · simp only [Nat.reducePow]
        split_ifs at hrne <;> omega
      · intro h
        exact absurd h h0
      · rw [hrp]
        simp only [Nat.reducePow]
        split_ifs at hrne <;> omega

theorem xor_sign (b : Nat) (h : b < 2 ^ 63) : b ^^^ 2 ^ 63 = 2 ^ 63 + b := by
  apply Nat.eq_of_testBit_eq
  intro i
  rw [Nat.testBit_xor, Nat.testBit_two_pow]
  rcases Nat.lt_trichotomy i 63 with c | c | c
  · rw [Nat.testBit_two_pow_add_gt c]
    have : decide (63 = i) = false := by
      simp only [decide_eq_false_iff_not]
      omega
    rw [this, Bool.xor_false]
  · subst c
    rw [Nat.testBit_two_pow_add_eq, Nat.testBit_lt_two_pow h]
    rfl
  · have h1 : b < 2 ^ i := Nat.lt_of_lt_of_le h (Nat.pow_le_pow_right (by decide) (by omega))
    have h2 : 2 ^ 63 + b < 2 ^ i :=
      Nat.lt_of_lt_of_le (by omega : 2 ^ 63 + b < 2 ^ 64)
        (Nat.pow_le_pow_right (by decide) (by omega))
    have : decide (63 = i) = false := by
      simp only [decide_eq_false_iff_not]
      omega
    rw [Nat.testBit_lt_two_pow h1, Nat.testBit_lt_two_pow h2, this]
    rfl

/-- Subtracting `1.5 * 2^52 ± ρ` from `1.5 * 2^52` gives `∓ρ`. -/
theorem magic_sub (ρ : Nat) (h1 : 1 ≤ ρ) (h2 : ρ ≤ 2 ^ 51) :
    f64Sub 0x4338000000000000 (0x4338000000000000 + ρ) = roundPack 1 ρ 4000 ∧
    f64Sub 0x4338000000000000 (0x4338000000000000 - ρ) = roundPack 0 ρ 4000 := by
  have c1 : f64IsNaN 0x4338000000000000 = false := by decide
  have c2 : f64IsInf 0x4338000000000000 = false := by decide
  have c3 : f64Sign 0x4338000000000000 = 0 := by decide
  have c4 : f64Sig 0x4338000000000000 = 6755399441055744 := by decide
  have c5 : f64E 0x4338000000000000 = 1075 := by decide
  simp only [Nat.reducePow] at h2
  constructor
  · rcases Nat.lt_or_ge ρ 2251799813685248 with c | c
    · have hn := xor_sign (0x4338000000000000 + ρ) (by simp only [Nat.reducePow]; omega)
      simp only [Nat.reducePow] at hn
      generalize hb : 4843621399236968448 + ρ = b at hn
      generalize hnb : 9223372036854775808 + b = nb at hn
      have g2 : f64Exp b = 1075 := by
        simp only [f64Exp, Nat.reducePow]
        omega
      have f1 : f64Sign nb = 1 := by
        simp only [f64Sign, Nat.reducePow]
        omega
      have f2 : f64Exp nb = 1075 := by
        simp only [f64Exp, Nat.reducePow]
        omega
      have f3 : f64Man nb = 2251799813685248 + ρ := by
        simp only [f64Man, Nat.reducePow]
        omega
      have n3 : f64IsNaN b = false := by
        simp only [f64IsNaN, g2, decide_eq_false_iff_not, not_and]
        omega
      have n4 : f64IsInf nb = false := by
        simp only [f64IsInf, f2, decide_eq_false_iff_not, not_and]
        omega
      have e2 : f64E nb = 1075 := by
        simp only [f64E, f2]
        rfl
      have s2 : f64Sig nb = 6755399441055744 + ρ := by
        simp only [f64Sig, f2, f3, Nat.reducePow]
        rw [if_neg (by decide)]
        omega
      have e3 : 6755399441055744 + ρ - 6755399441055744 = ρ := by omega
      unfold f64Sub f64AddCore f64Neg
      simp only [c1, c2, c3, c4, c5, n3, n4, hn, e2, s2, f1, Bool.false_eq_true, if_false,
        Nat.min_self, Nat.sub_self, Nat.pow_zero, Nat.mul_one, Nat.reduceAdd, Nat.reducePow]
      rw [if_neg (by omega), if_neg (by omega), if_pos (by omega), e3]
    · have : ρ = 2251799813685248 := by omega
      subst this
      decide!
  · have hn := xor_sign (0x4338000000000000 - ρ) (by simp only [Nat.reducePow]; omega)
    simp only [Nat.reducePow] at hn
    generalize hb : 4843621399236968448 - ρ = b at hn
    generalize hnb : 9223372036854775808 + b = nb at hn
    have g2 : f64Exp b = 1075 := by
      simp only [f64Exp, Nat.reducePow]
      omega
    have f1 : f64Sign nb = 1 := by
      simp only [f64Sign, Nat.reducePow]
      omega
    have f2 : f64Exp nb = 1075 := by
      simp only [f64Exp, Nat.reducePow]
      omega
    have f3 : f64Man nb = 2251799813685248 - ρ := by
      simp only [f64Man, Nat.reducePow]
      omega
    have n3 : f64IsNaN b = false := by
      simp only [f64IsNaN, g2, decide_eq_false_iff_not, not_and]
      omega
    have n4 : f64IsInf nb = false := by
      simp only [f64IsInf, f2, decide_eq_false_iff_not, not_and]
      omega
    have e2 : f64E nb = 1075 := by
      simp only [f64E, f2]
      rfl
    have s2 : f64Sig nb = 6755399441055744 - ρ := by
      simp only [f64Sig, f2, f3, Nat.reducePow]
      rw [if_neg (by decide)]
      omega
    have e3 : 6755399441055744 - (6755399441055744 - ρ) = ρ := by omega
    unfold f64Sub f64AddCore f64Neg
    simp only [c1, c2, c3, c4, c5, n3, n4, hn, e2, s2, f1, Bool.false_eq_true, if_false,
      Nat.min_self, Nat.sub_self, Nat.pow_zero, Nat.mul_one, Nat.reduceAdd, Nat.reducePow]
    rw [if_neg (by omega), if_pos (by omega), e3]

/-- Adding `∓ρ` back to `y`: the sum is zero when `y` is the integer `±ρ`, and a normal
number when `y` is not an integer. -/
theorem magic_rest (y ρ sd : Nat) (hE1 : 1023 ≤ f64Exp y) (hE2 : f64Exp y ≤ 1073)
    (h1 : 1 ≤ ρ) (h2 : ρ ≤ 2 ^ 51) (hsd : sd ≤ 1) (hne : sd ≠ f64Sign y)
    (hint : f64Sig y % 2 ^ (1075 - f64Exp y) = 0 → ρ = f64Sig y / 2 ^ (1075 - f64Exp y)) :
    (f64Add y (roundPack sd ρ 4000) / 2 ^ 48 % 32768 = 0 ↔
      f64Sig y % 2 ^ (1075 - f64Exp y) = 0) := by
  obtain ⟨n, hn, a, b, m1, m2, hd⟩ := roundPack_int sd ρ h1
    (Nat.lt_of_le_of_lt h2 (by decide))
  rw [hd]
  have hsy : f64Sign y ≤ 1 := by
    simp only [f64Sign]
    omega
  have n1 : f64IsNaN y = false := by
    simp only [f64IsNaN, decide_eq_false_iff_not, not_and]
    omega
  have n2 : f64IsInf y = false := by
    simp only [f64IsInf, decide_eq_false_iff_not, not_and]
    omega
  have e1 : f64E y = f64Exp y := by
    simp only [f64E]
    rw [if_neg (by omega)]
  have hm1 : 2 ^ 52 ≤ f64Sig y := by
    simp only [f64Sig]
    rw [if_neg (by omega)]
    omega
  have hm2 : f64Sig y < 2 ^ 53 := by
    simp only [f64Sig, f64Man, Nat.reducePow]
    rw [if_neg (by omega)]
    omega
  generalize hM : ρ * 2 ^ (52 - n) = M at m1 m2 ⊢
  generalize hdd : sd * 2 ^ 63 + ((n + 1022) * 2 ^ 52 + M) = d
  simp only [Nat.reducePow] at m1 m2 hdd
  have f1 : f64Sign d = sd := by
    simp only [f64Sign, Nat.reducePow]
    omega
  have f2 : f64Exp d = n + 1023 := by
    simp only [f64Exp, Nat.reducePow]
    omega
  have f3 : f64Man d = M - 4503599627370496 := by
    simp only [f64Man, Nat.reducePow]
    omega
  have n3 : f64IsNaN d = false := by
    simp only [f64IsNaN, f2, decide_eq_false_iff_not, not_and]
    omega
  have n4 : f64IsInf d = false := by
    simp only [f64IsInf, f2, decide_eq_false_iff_not, not_and]
    omega
  have e2 : f64E d = n + 1023 := by
    simp only [f64E, f2]
    rw [if_neg (by omega)]
  have s2 : f64Sig d = M := by
    simp only [f64Sig, f2, f3, Nat.reducePow]
    rw [if_neg (by omega)]
    omega
  unfold f64Add f64AddCore
  simp only [n1, n2, n3, n4, e1, e2, s2, f1, Bool.false_eq_true, if_false]
  rw [if_neg (fun h => hne h.symm)]
  generalize hm : f64Sig y = m at *
  obtain ⟨tt, htt⟩ : ∃ tt, tt = 1075 - f64Exp y := ⟨_, rfl⟩
  rw [← htt] at hint ⊢
  generalize hE : f64Exp y = E at *
  have hEt : E + tt = 1075 := by omega
  by_cases h0 : m % 2 ^ tt = 0
  · have hk := hint h0
    have hmk : m = 2 ^ tt * ρ := by
      have := Nat.div_add_mod m (2 ^ tt)
      rw [h0, ← hk] at this
      omega
    have hnt : n + tt = 52 := by
      have u1 : 2 ^ (tt + n) ≤ m := by
        rw [hmk, Nat.pow_add]
        exact Nat.mul_le_mul_left _ a
      have u2 : m < 2 ^ (tt + (n + 1)) := by
        rw [hmk, Nat.pow_add]
        exact Nat.mul_lt_mul_of_pos_left b (Nat.two_pow_pos _)
      have v1 : tt + n < 53 :=
        (Nat.pow_lt_pow_iff_right (by decide : 1 < 2)).1 (Nat.lt_of_le_of_lt u1 hm2)
      have v2 : 52 < tt + (n + 1) :=
        (Nat.pow_lt_pow_iff_right (by decide : 1 < 2)).1 (Nat.lt_of_le_of_lt hm1 u2)
      omega
    have hMm : M = m := by
      have e : 52 - n = tt := by omega
      rw [← hM, e, hmk, Nat.mul_comm]
    have hEn : n + 1023 = E := by omega
    rw [hMm, hEn, Nat.min_self, Nat.sub_self, Nat.pow_zero, Nat.mul_one,
      if_neg (Nat.lt_irrefl m), if_neg (Nat.lt_irrefl m)]
    simp only [h0, Nat.zero_div, Nat.zero_mod]
  · have hAB : m * 2 ^ (E - min E (n + 1023)) ≠ M * 2 ^ (n + 1023 - min E (n + 1023)) := by
      intro h
      apply h0
      have hem1 : min E (n + 1023) ≤ E := Nat.min_le_left _ _
      have hem2 : min E (n + 1023) ≤ n + 1023 := Nat.min_le_right _ _
      generalize min E (n + 1023) = em at h hem1 hem2
      have h3 : m * 2 ^ (E - em) * 2 ^ em = M * 2 ^ (n + 1023 - em) * 2 ^ em := by rw [h]
      rw [Nat.mul_assoc, Nat.mul_assoc, ← Nat.pow_add, ← Nat.pow_add,
        Nat.sub_add_cancel hem1, Nat.sub_add_cancel hem2, ← hM, Nat.mul_assoc,
        ← Nat.pow_add] at h3
      have e5 : 52 - n + (n + 1023) = tt + E := by omega
      rw [e5, Nat.pow_add, ← Nat.mul_assoc] at h3
      have h4 := Nat.eq_of_mul_eq_mul_right (Nat.two_pow_pos E) h3
      rw [h4]
      exact Nat.mul_mod_left _ _
    have hem : 1023 ≤ min E (n + 1023) := by omega
    generalize min E (n + 1023) = em at hAB hem ⊢
    generalize m * 2 ^ (E - em) = A at hAB ⊢
    generalize M * 2 ^ (n + 1023 - em) = B at hAB ⊢
    simp only [h0, iff_false]
    split_ifs with c1 c2
    · have lo := roundPack_normal (f64Sign y) (A - B) (em + 2925) (by omega) (by omega)
      have hi := roundPack_le (f64Sign y) (A - B) (em + 2925)
      simp only [Nat.reducePow] at lo hi
      omega
    · have lo := roundPack_normal sd (B - A) (em + 2925) (by omega) (by omega)
      have hi := roundPack_le sd (B - A) (em + 2925)
      simp only [Nat.reducePow] at lo hi
      omega
    · omega

/-- The integer and parity test of `fast_pow` for `1 ≤ |y| < 2^51`: with `r = 1.5 * 2^52 + y`,
the value `y + (1.5 * 2^52 - r)` has a zero exponent field and zero top four mantissa bits
exactly when `y` is an integer, and then the low bit of `r` is the parity of `|y|`. -/
theorem parity_trick (y : Nat) (hE1 : 1023 ≤ f64Exp y) (hE2 : f64Exp y ≤ 1073) :
    (f64Add y (f64Sub 0x4338000000000000 (f64Add 0x4338000000000000 y)) / 2 ^ 48 % 32768 = 0 ↔
      f64Sig y % 2 ^ (1075 - f64Exp y) = 0) ∧
    (f64Sig y % 2 ^ (1075 - f64Exp y) = 0 →
      f64Add 0x4338000000000000 y % 2 = f64Sig y / 2 ^ (1075 - f64Exp y) % 2) ∧
    f64Add 0x4338000000000000 y < 2 ^ 64 := by
  obtain ⟨ρ, h1, h2, hint, hadd⟩ := magic_add y hE1 hE2
  have hsy : f64Sign y ≤ 1 := by
    simp only [f64Sign]
    omega
  have h2' := h2
  simp only [Nat.reducePow] at h2'
  by_cases hs : f64Sign y = 0
  · rw [if_pos hs] at hadd
    rw [hadd, (magic_sub ρ h1 h2).1]
    refine ⟨magic_rest y ρ 1 hE1 hE2 h1 h2 (Nat.le_refl 1) (by omega) hint, fun h0 => ?_, ?_⟩
    · rw [← hint h0]
      omega
    · simp only [Nat.reducePow]
      omega
  · rw [if_neg hs] at hadd
    rw [hadd, (magic_sub ρ h1 h2).2]
    refine ⟨magic_rest y ρ 0 hE1 hE2 h1 h2 (by decide) (by omega) hint, fun h0 => ?_, ?_⟩
    · rw [← hint h0]
      omega
    · simp only [Nat.reducePow]
      omega

/-! ### Integer exponents by exponent range -/

theorem isInteger_iff (y : Nat) : f64IsInteger y = true ↔
    ((f64Exp y = 0 ∧ f64Man y = 0) ∨ (1075 < f64Exp y ∧ f64Exp y < 2047) ∨
      (1023 ≤ f64Exp y ∧ f64Exp y ≤ 1075 ∧ f64Sig y % 2 ^ (1075 - f64Exp y) = 0)) := by
  simp only [f64IsInteger, f64IsZero, decide_eq_true_eq]

theorem isOddInteger_iff (y : Nat) : f64IsOddInteger y = true ↔
    (1023 ≤ f64Exp y ∧ f64Exp y ≤ 1075 ∧ f64Sig y % 2 ^ (1075 - f64Exp y) = 0 ∧
      f64Sig y / 2 ^ (1075 - f64Exp y) % 2 = 1) := by
  simp only [f64IsOddInteger, decide_eq_true_eq]

theorem int_small (y : Nat) (h0 : y % 9223372036854775808 ≠ 0) (hE : f64Exp y < 1023) :
    f64IsInteger y = false ∧ f64IsOddInteger y = false := by
  have hz : ¬ (f64Exp y = 0 ∧ f64Man y = 0) := by
    simp only [f64Exp, f64Man, Nat.reducePow]
    omega
  rw [← Bool.not_eq_true, ← Bool.not_eq_true, isInteger_iff, isOddInteger_iff]
  omega

theorem int_big (y : Nat) (h1 : 1075 < f64Exp y) (h2 : f64Exp y < 2047) :
    f64IsInteger y = true ∧ f64IsOddInteger y = false := by
  rw [← Bool.not_eq_true, isInteger_iff, isOddInteger_iff]
  omega

theorem int_1075 (y : Nat) (hE : f64Exp y = 1075) :
    f64IsInteger y = true ∧ (f64IsOddInteger y = true ↔ y % 2 = 1) := by
  have hs : f64Sig y % 2 = y % 2 := by
    simp only [f64Sig, f64Man, hE, Nat.reducePow]
    rw [if_neg (by decide)]
    omega
  rw [isInteger_iff, isOddInteger_iff, hE]
  simp only [Nat.reduceSub, Nat.pow_zero, Nat.mod_one, Nat.div_one, hs, and_true, true_and]
  omega

theorem int_1074 (y : Nat) (hE : f64Exp y = 1074) :
    (f64IsInteger y = true ↔ y % 2 = 0) ∧
    (f64IsOddInteger y = true ↔ y % 2 = 0 ∧ y / 2 % 2 = 1) := by
  have hs : f64Sig y % 2 = y % 2 := by
    simp only [f64Sig, f64Man, hE, Nat.reducePow]
    rw [if_neg (by decide)]
    omega
  have hs2 : f64Sig y / 2 % 2 = y / 2 % 2 := by
    simp only [f64Sig, f64Man, hE, Nat.reducePow]
    rw [if_neg (by decide)]
    omega
  rw [isInteger_iff, isOddInteger_iff, hE]
  simp only [Nat.reduceSub, Nat.pow_one, hs, hs2]
  omega

theorem int_mid (y : Nat) (h1 : 1023 ≤ f64Exp y) (h2 : f64Exp y ≤ 1073) :
    (f64IsInteger y = true ↔ f64Sig y % 2 ^ (1075 - f64Exp y) = 0) ∧
    (f64IsOddInteger y = true ↔ f64Sig y % 2 ^ (1075 - f64Exp y) = 0 ∧
      f64Sig y / 2 ^ (1075 - f64Exp y) % 2 = 1) := by
  rw [isInteger_iff, isOddInteger_iff]
  generalize f64Sig y % 2 ^ (1075 - f64Exp y) = a
  generalize f64Sig y / 2 ^ (1075 - f64Exp y) % 2 = b
  omega

/-! ### Results are 64-bit patterns -/

theorem f64AddCore_lt (a b : Nat) (ha : a < 18446744073709551616)
    (hb : b < 18446744073709551616) : f64AddCore a b < 18446744073709551616 := by
  have sa : f64Sign a ≤ 1 := by
    simp only [f64Sign]
    omega
  have sb : f64Sign b ≤ 1 := by
    simp only [f64Sign]
    omega
  unfold f64AddCore
  simp only
  split_ifs
  · decide
  · exact ha
  · exact hb
  · have := roundPack_le (f64Sign a) (f64Sig a * 2 ^ (f64E a - min (f64E a) (f64E b)) +
      f64Sig b * 2 ^ (f64E b - min (f64E a) (f64E b))) (min (f64E a) (f64E b) + 2925)
    simp only [Nat.reducePow] at this
    omega
  · have := roundPack_le (f64Sign a) (f64Sig a * 2 ^ (f64E a - min (f64E a) (f64E b)) -
      f64Sig b * 2 ^ (f64E b - min (f64E a) (f64E b))) (min (f64E a) (f64E b) + 2925)
    simp only [Nat.reducePow] at this
    omega
  · have := roundPack_le (f64Sign b) (f64Sig b * 2 ^ (f64E b - min (f64E a) (f64E b)) -
      f64Sig a * 2 ^ (f64E a - min (f64E a) (f64E b))) (min (f64E a) (f64E b) + 2925)
    simp only [Nat.reducePow] at this
    omega
  · decide

theorem f64Add_lt (a b : Nat) (ha : a < 18446744073709551616)
    (hb : b < 18446744073709551616) : f64Add a b < 18446744073709551616 := by
  unfold f64Add
  split_ifs
  · exact f64Quiet_lt a ha
  · exact f64Quiet_lt b hb
  · exact f64AddCore_lt a b ha hb

theorem f64Sub_lt (a b : Nat) (ha : a < 18446744073709551616)
    (hb : b < 18446744073709551616) : f64Sub a b < 18446744073709551616 := by
  unfold f64Sub
  split_ifs
  · exact f64Quiet_lt a ha
  · exact f64Quiet_lt b hb
  · refine f64AddCore_lt a _ ha ?_
    unfold f64Neg
    exact Nat.xor_lt_two_pow (n := 64) hb (by decide)

theorem f64Mul_lt (a b : Nat) (ha : a < 18446744073709551616) (hb : b < 18446744073709551616) :
    f64Mul a b < 18446744073709551616 := by
  unfold f64Mul
  simp only
  split_ifs
  · exact f64Quiet_lt a ha
  · exact f64Quiet_lt b hb
  · decide
  · omega
  · have := roundPack_le ((f64Sign a + f64Sign b) % 2) (f64Sig a * f64Sig b)
      (f64E a + f64E b + 1850)
    omega

end MacroAssembler

namespace MacroAssembler
open XReg GReg Machine

/-! ### The tests of `L_2TAG_PACKET_7_0_2` (negative finite base) -/

theorem pow_L7_c1 (cpu : Cpu) (s : Machine) :
    cc_equal (fast_pow.L_2TAG_PACKET_7_0_2_1 cpu s) = true ↔ s.get (.m 8) % 9223372036854775808 = 0 := by
  set_option maxRecDepth 8000 in
  simp only [
      ↓reduceIte, ↓fast_pow.pow_L_2TAG_PACKET_7_0_2_1_sem, ↓Machine.get_setx,
      ↓Machine.get_setg, ↓Machine.get_setstk, ↓Machine.get_enter, ↓Machine.get_setFlags,
      ↓Machine.trace_set, ↓Machine.get_ite, ↓Machine.trace_ite, ↓Machine.obs_eq_get,
      ↓Machine.flags_get, ↓Machine.flags_trace, ↓sem_get_1, ↓sem_get_2, ↓sem_get_3,
      ↓sem_get_4, ↓sem_trace_1, ↓sem_trace_2, ↓sem_trace_3, ↓sem_trace_4, ↓load_const,
      cc_iff, ea, and_imm, and_imm_left, ilog2_lit, or_eq_zero, or_mod32, or_lt_2p31,
      Nat.mod_mod, Nat.zero_or, Nat.or_zero, Nat.sub_zero, Nat.add_mod_right, lane_eq,
      Machine.io_eq_get, Nat.xor_self, Loc.x.injEq, Loc.g.injEq, Loc.m.injEq,
      Bool.toNat_eq_zero, Bool.toNat_eq_one, Nat.reducePow, Nat.reduceMul, Nat.reduceMod,
      Nat.reduceAdd, Nat.reduceSub, Nat.reduceDiv, Nat.reduceEqDiff, Nat.reduceLTLE,
      Nat.reduceLeDiff, Nat.reduceLT, Nat.reduceGT, Nat.reduceOr, Nat.reduceXor,
      reduceCtorEq, Bool.not_eq_true', Bool.not_eq_true, decide_eq_true_eq,
      decide_eq_false_iff_not, Bool.and_eq_true, Bool.or_eq_true, bne_iff_ne, beq_iff_eq,
      ne_eq, Bool.not_eq_false', Bool.not_eq_false, decide_not, not_not,
      Bool.decide_eq_true, Bool.false_eq_true, Bool.true_eq_false, not_false_eq_true,
      not_true_eq_false, and_true, true_and, and_false, false_and, or_true, true_or,
      or_false, false_or, not_true, not_false_iff, iff_self, true_iff, iff_true, false_iff,
      iff_false, ite_self, decide_eq_decide, decide_False, decide_True, Bool.not_true,
      Bool.not_false]
  all_goals omega

theorem pow_L7_c2 (cpu : Cpu) (s : Machine) :
    cc_equal (fast_pow.L_2TAG_PACKET_7_0_2_2 cpu (fast_pow.L_2TAG_PACKET_7_0_2_1 cpu s)) = true ↔ s.get (.m 16) % 9223372036854775808 = 0 := by
  set_option maxRecDepth 8000 in
  simp only [
      ↓reduceIte, ↓fast_pow.pow_L_2TAG_PACKET_7_0_2_2_sem,
      ↓fast_pow.pow_L_2TAG_PACKET_7_0_2_1_sem, ↓Machine.get_setx, ↓Machine.get_setg,
      ↓Machine.get_setstk, ↓Machine.get_enter, ↓Machine.get_setFlags, ↓Machine.trace_set,
      ↓Machine.get_ite, ↓Machine.trace_ite, ↓Machine.obs_eq_get, ↓Machine.flags_get,
      ↓Machine.flags_trace, ↓sem_get_1, ↓sem_get_2, ↓sem_get_3, ↓sem_get_4, ↓sem_trace_1,
      ↓sem_trace_2, ↓sem_trace_3, ↓sem_trace_4, ↓load_const, cc_iff, ea, and_imm,
      and_imm_left, ilog2_lit, or_eq_zero, or_mod32, or_lt_2p31, Nat.mod_mod, Nat.zero_or,
      Nat.or_zero, Nat.sub_zero, Nat.add_mod_right, lane_eq, Machine.io_eq_get,
      Nat.xor_self, Loc.x.injEq, Loc.g.injEq, Loc.m.injEq, Bool.toNat_eq_zero,
      Bool.toNat_eq_one, Nat.reducePow, Nat.reduceMul, Nat.reduceMod, Nat.reduceAdd,
      Nat.reduceSub, Nat.reduceDiv, Nat.reduceEqDiff, Nat.reduceLTLE, Nat.reduceLeDiff,
      Nat.reduceLT, Nat.reduceGT, Nat.reduceOr, Nat.reduceXor, reduceCtorEq,
      Bool.not_eq_true', Bool.not_eq_true, decide_eq_true_eq, decide_eq_false_iff_not,
      Bool.and_eq_true, Bool.or_eq_true, bne_iff_ne, beq_iff_eq, ne_eq, Bool.not_eq_false',
      Bool.not_eq_false, decide_not, not_not, Bool.decide_eq_true, Bool.false_eq_true,
      Bool.true_eq_false, not_false_eq_true, not_true_eq_false, and_true, true_and,
      and_false, false_and, or_true, true_or, or_false, false_or, not_true, not_false_iff,
      iff_self, true_iff, iff_true, false_iff, iff_false, ite_self, decide_eq_decide,
      decide_False, decide_True, Bool.not_true, Bool.not_false]
  all_goals omega

theorem pow_L7_c3 (cpu : Cpu) (s : Machine) :
    cc_equal (fast_pow.L_2TAG_PACKET_7_0_2_3 cpu (fast_pow.L_2TAG_PACKET_7_0_2_2 cpu (fast_pow.L_2TAG_PACKET_7_0_2_1 cpu s))) = true ↔ s.get (.m 16) / 4503599627370496 % 2048 = 2047 := by
  set_option maxRecDepth 8000 in
  simp only [
      ↓reduceIte, ↓fast_pow.pow_L_2TAG_PACKET_7_0_2_3_sem,
      ↓fast_pow.pow_L_2TAG_PACKET_7_0_2_2_sem, ↓fast_pow.pow_L_2TAG_PACKET_7_0_2_1_sem,
      ↓Machine.get_setx, ↓Machine.get_setg, ↓Machine.get_setstk, ↓Machine.get_enter,
      ↓Machine.get_setFlags, ↓Machine.trace_set, ↓Machine.get_ite, ↓Machine.trace_ite,
      ↓Machine.obs_eq_get, ↓Machine.flags_get, ↓Machine.flags_trace, ↓sem_get_1, ↓sem_get_2,
      ↓sem_get_3, ↓sem_get_4, ↓sem_trace_1, ↓sem_trace_2, ↓sem_trace_3, ↓sem_trace_4,
      ↓load_const, cc_iff, ea, and_imm, and_imm_left, ilog2_lit, or_eq_zero, or_mod32,
      or_lt_2p31, Nat.mod_mod, Nat.zero_or, Nat.or_zero, Nat.sub_zero, Nat.add_mod_right,
      lane_eq, Machine.io_eq_get, Nat.xor_self, Loc.x.injEq, Loc.g.injEq, Loc.m.injEq,
      Bool.toNat_eq_zero, Bool.toNat_eq_one, Nat.reducePow, Nat.reduceMul, Nat.reduceMod,
      Nat.reduceAdd, Nat.reduceSub, Nat.reduceDiv, Nat.reduceEqDiff, Nat.reduceLTLE,
      Nat.reduceLeDiff, Nat.reduceLT, Nat.reduceGT, Nat.reduceOr, Nat.reduceXor,
      reduceCtorEq, Bool.not_eq_true', Bool.not_eq_true, decide_eq_true_eq,
      decide_eq_false_iff_not, Bool.and_eq_true, Bool.or_eq_true, bne_iff_ne, beq_iff_eq,
      ne_eq, Bool.not_eq_false', Bool.not_eq_false, decide_not, not_not,
      Bool.decide_eq_true, Bool.false_eq_true, Bool.true_eq_false, not_false_eq_true,
      not_true_eq_false, and_true, true_and, and_false, false_and, or_true, true_or,
      or_false, false_or, not_true, not_false_iff, iff_self, true_iff, iff_true, false_iff,
      iff_false, ite_self, decide_eq_decide, decide_False, decide_True, Bool.not_true,
      Bool.not_false]
  all_goals omega

theorem pow_L7_c4 (cpu : Cpu) (s : Machine) :
    cc_above (fast_pow.L_2TAG_PACKET_7_0_2_4 cpu (fast_pow.L_2TAG_PACKET_7_0_2_3 cpu (fast_pow.L_2TAG_PACKET_7_0_2_2 cpu (fast_pow.L_2TAG_PACKET_7_0_2_1 cpu s)))) = true ↔ 1075 < s.get (.m 16) / 4503599627370496 % 2048 := by
  set_option maxRecDepth 8000 in
  simp only [
      ↓reduceIte, ↓fast_pow.pow_L_2TAG_PACKET_7_0_2_4_sem,
      ↓fast_pow.pow_L_2TAG_PACKET_7_0_2_3_sem, ↓fast_pow.pow_L_2TAG_PACKET_7_0_2_2_sem,
      ↓fast_pow.pow_L_2TAG_PACKET_7_0_2_1_sem, ↓Machine.get_setx, ↓Machine.get_setg,
      ↓Machine.get_setstk, ↓Machine.get_enter, ↓Machine.get_setFlags, ↓Machine.trace_set,
      ↓Machine.get_ite, ↓Machine.trace_ite, ↓Machine.obs_eq_get, ↓Machine.flags_get,
      ↓Machine.flags_trace, ↓sem_get_1, ↓sem_get_2, ↓sem_get_3, ↓sem_get_4, ↓sem_trace_1,
      ↓sem_trace_2, ↓sem_trace_3, ↓sem_trace_4, ↓load_const, cc_iff, ea, and_imm,
      and_imm_left, ilog2_lit, or_eq_zero, or_mod32, or_lt_2p31, Nat.mod_mod, Nat.zero_or,
      Nat.or_zero, Nat.sub_zero, Nat.add_mod_right, lane_eq, Machine.io_eq_get,
      Nat.xor_self, Loc.x.injEq, Loc.g.injEq, Loc.m.injEq, Bool.toNat_eq_zero,
      Bool.toNat_eq_one, Nat.reducePow, Nat.reduceMul, Nat.reduceMod, Nat.reduceAdd,
      Nat.reduceSub, Nat.reduceDiv, Nat.reduceEqDiff, Nat.reduceLTLE, Nat.reduceLeDiff,
      Nat.reduceLT, Nat.reduceGT, Nat.reduceOr, Nat.reduceXor, reduceCtorEq,
      Bool.not_eq_true', Bool.not_eq_true, decide_eq_true_eq, decide_eq_false_iff_not,
      Bool.and_eq_true, Bool.or_eq_true, bne_iff_ne, beq_iff_eq, ne_eq, Bool.not_eq_false',
      Bool.not_eq_false, decide_not, not_not, Bool.decide_eq_true, Bool.false_eq_true,
      Bool.true_eq_false, not_false_eq_true, not_true_eq_false, and_true, true_and,
      and_false, false_and, or_true, true_or, or_false, false_or, not_true, not_false_iff,
      iff_self, true_iff, iff_true, false_iff, iff_false, ite_self, decide_eq_decide,
      decide_False, decide_True, Bool.not_true, Bool.not_false]
  all_goals omega

theorem pow_L7_c5 (cpu : Cpu) (s : Machine) :
    cc_aboveEqual (fast_pow.L_2TAG_PACKET_7_0_2_5 cpu (fast_pow.L_2TAG_PACKET_7_0_2_4 cpu (fast_pow.L_2TAG_PACKET_7_0_2_3 cpu (fast_pow.L_2TAG_PACKET_7_0_2_2 cpu (fast_pow.L_2TAG_PACKET_7_0_2_1 cpu s))))) = true ↔
      1074 ≤ s.get (.m 16) / 4503599627370496 % 2048 := by
  set_option maxRecDepth 8000 in
  simp only [
      ↓reduceIte, ↓fast_pow.pow_L_2TAG_PACKET_7_0_2_5_sem,
      ↓fast_pow.pow_L_2TAG_PACKET_7_0_2_4_sem, ↓fast_pow.pow_L_2TAG_PACKET_7_0_2_3_sem,
      ↓fast_pow.pow_L_2TAG_PACKET_7_0_2_2_sem, ↓fast_pow.pow_L_2TAG_PACKET_7_0_2_1_sem,
      ↓Machine.get_setx, ↓Machine.get_setg, ↓Machine.get_setstk, ↓Machine.get_enter,
      ↓Machine.get_setFlags, ↓Machine.trace_set, ↓Machine.get_ite, ↓Machine.trace_ite,
      ↓Machine.obs_eq_get, ↓Machine.flags_get, ↓Machine.flags_trace, ↓sem_get_1, ↓sem_get_2,
      ↓sem_get_3, ↓sem_get_4, ↓sem_trace_1, ↓sem_trace_2, ↓sem_trace_3, ↓sem_trace_4,
      ↓load_const, cc_iff, ea, and_imm, and_imm_left, ilog2_lit, or_eq_zero, or_mod32,
      or_lt_2p31, Nat.mod_mod, Nat.zero_or, Nat.or_zero, Nat.sub_zero, Nat.add_mod_right,
      lane_eq, Machine.io_eq_get, Nat.xor_self, Loc.x.injEq, Loc.g.injEq, Loc.m.injEq,
      Bool.toNat_eq_zero, Bool.toNat_eq_one, Nat.reducePow, Nat.reduceMul, Nat.reduceMod,
      Nat.reduceAdd, Nat.reduceSub, Nat.reduceDiv, Nat.reduceEqDiff, Nat.reduceLTLE,
      Nat.reduceLeDiff, Nat.reduceLT, Nat.reduceGT, Nat.reduceOr, Nat.reduceXor,
      reduceCtorEq, Bool.not_eq_true', Bool.not_eq_true, decide_eq_true_eq,
      decide_eq_false_iff_not, Bool.and_eq_true, Bool.or_eq_true, bne_iff_ne, beq_iff_eq,
      ne_eq, Bool.not_eq_false', Bool.not_eq_false, decide_not, not_not,
      Bool.decide_eq_true, Bool.false_eq_true, Bool.true_eq_false, not_false_eq_true,
      not_true_eq_false, and_true, true_and, and_false, false_and, or_true, true_or,
      or_false, false_or, not_true, not_false_iff, iff_self, true_iff, iff_true, false_iff,
      iff_false, ite_self, decide_eq_decide, decide_False, decide_True, Bool.not_true,
      Bool.not_false]
  all_goals omega

theorem pow_L7_c6 (cpu : Cpu) (s : Machine) :
    cc_below (fast_pow.L_2TAG_PACKET_7_0_2_6 cpu (fast_pow.L_2TAG_PACKET_7_0_2_5 cpu (fast_pow.L_2TAG_PACKET_7_0_2_4 cpu (fast_pow.L_2TAG_PACKET_7_0_2_3 cpu (fast_pow.L_2TAG_PACKET_7_0_2_2 cpu (fast_pow.L_2TAG_PACKET_7_0_2_1 cpu s)))))) = true ↔ s.get (.m 16) / 4503599627370496 % 2048 < 1023 := by
  set_option maxRecDepth 8000 in
  simp only [
      ↓reduceIte, ↓fast_pow.pow_L_2TAG_PACKET_7_0_2_6_sem,
      ↓fast_pow.pow_L_2TAG_PACKET_7_0_2_5_sem, ↓fast_pow.pow_L_2TAG_PACKET_7_0_2_4_sem,
      ↓fast_pow.pow_L_2TAG_PACKET_7_0_2_3_sem, ↓fast_pow.pow_L_2TAG_PACKET_7_0_2_2_sem,
      ↓fast_pow.pow_L_2TAG_PACKET_7_0_2_1_sem, ↓Machine.get_setx, ↓Machine.get_setg,
      ↓Machine.get_setstk, ↓Machine.get_enter, ↓Machine.get_setFlags, ↓Machine.trace_set,
      ↓Machine.get_ite, ↓Machine.trace_ite, ↓Machine.obs_eq_get, ↓Machine.flags_get,
      ↓Machine.flags_trace, ↓sem_get_1, ↓sem_get_2, ↓sem_get_3, ↓sem_get_4, ↓sem_trace_1,
      ↓sem_trace_2, ↓sem_trace_3, ↓sem_trace_4, ↓load_const, cc_iff, ea, and_imm,
      and_imm_left, ilog2_lit, or_eq_zero, or_mod32, or_lt_2p31, Nat.mod_mod, Nat.zero_or,
      Nat.or_zero, Nat.sub_zero, Nat.add_mod_right, lane_eq, Machine.io_eq_get,
      Nat.xor_self, Loc.x.injEq, Loc.g.injEq, Loc.m.injEq, Bool.toNat_eq_zero,
      Bool.toNat_eq_one, Nat.reducePow, Nat.reduceMul, Nat.reduceMod, Nat.reduceAdd,
      Nat.reduceSub, Nat.reduceDiv, Nat.reduceEqDiff, Nat.reduceLTLE, Nat.reduceLeDiff,
      Nat.reduceLT, Nat.reduceGT, Nat.reduceOr, Nat.reduceXor, reduceCtorEq,
      Bool.not_eq_true', Bool.not_eq_true, decide_eq_true_eq, decide_eq_false_iff_not,
      Bool.and_eq_true, Bool.or_eq_true, bne_iff_ne, beq_iff_eq, ne_eq, Bool.not_eq_false',
      Bool.not_eq_false, decide_not, not_not, Bool.decide_eq_true, Bool.false_eq_true,
      Bool.true_eq_false, not_false_eq_true, not_true_eq_false, and_true, true_and,
      and_false, false_and, or_true, true_or, or_false, false_or, not_true, not_false_iff,
      iff_self, true_iff, iff_true, false_iff, iff_false, ite_self, decide_eq_decide,
      decide_False, decide_True, Bool.not_true, Bool.not_false]
  all_goals omega

theorem pow_L7_c7 (cpu : Cpu) (s : Machine) :
    cc_notEqual (fast_pow.L_2TAG_PACKET_7_0_2_7 cpu (fast_pow.L_2TAG_PACKET_7_0_2_6 cpu (fast_pow.L_2TAG_PACKET_7_0_2_5 cpu (fast_pow.L_2TAG_PACKET_7_0_2_4 cpu (fast_pow.L_2TAG_PACKET_7_0_2_3 cpu (fast_pow.L_2TAG_PACKET_7_0_2_2 cpu (fast_pow.L_2TAG_PACKET_7_0_2_1 cpu s))))))) = true ↔
      f64Add (s.get (.m 16) % 18446744073709551616) (f64Sub 0x4338000000000000
        (f64Add 0x4338000000000000 (s.get (.m 16) % 18446744073709551616)))
        / 281474976710656 % 32768 ≠ 0 := by
  have hy : s.get (.m 16) % 18446744073709551616 < 18446744073709551616 :=
    Nat.mod_lt _ (by decide)
  have hr := f64Add_lt 0x4338000000000000 _ (by decide) hy
  have hd := f64Sub_lt 0x4338000000000000 _ (by decide) hr
  have hz := f64Add_lt _ _ hy hd
  set_option maxRecDepth 8000 in
  simp only [
      ↓reduceIte, ↓fast_pow.pow_L_2TAG_PACKET_7_0_2_7_sem,
      ↓fast_pow.pow_L_2TAG_PACKET_7_0_2_6_sem, ↓fast_pow.pow_L_2TAG_PACKET_7_0_2_5_sem,
      ↓fast_pow.pow_L_2TAG_PACKET_7_0_2_4_sem, ↓fast_pow.pow_L_2TAG_PACKET_7_0_2_3_sem,
      ↓fast_pow.pow_L_2TAG_PACKET_7_0_2_2_sem, ↓fast_pow.pow_L_2TAG_PACKET_7_0_2_1_sem,
      Nat.add_zero, Nat.mod_eq_of_lt hr, Nat.mod_eq_of_lt hd, ↓Machine.get_setx,
      ↓Machine.get_setg, ↓Machine.get_setstk, ↓Machine.get_enter, ↓Machine.get_setFlags,
      ↓Machine.trace_set, ↓Machine.get_ite, ↓Machine.trace_ite, ↓Machine.obs_eq_get,
      ↓Machine.flags_get, ↓Machine.flags_trace, ↓sem_get_1, ↓sem_get_2, ↓sem_get_3,
      ↓sem_get_4, ↓sem_trace_1, ↓sem_trace_2, ↓sem_trace_3, ↓sem_trace_4, ↓load_const,
      cc_iff, ea, and_imm, and_imm_left, ilog2_lit, or_eq_zero, or_mod32, or_lt_2p31,
      Nat.mod_mod, Nat.zero_or, Nat.or_zero, Nat.sub_zero, Nat.add_mod_right, lane_eq,
      Machine.io_eq_get, Nat.xor_self, Loc.x.injEq, Loc.g.injEq, Loc.m.injEq,
      Bool.toNat_eq_zero, Bool.toNat_eq_one, Nat.reducePow, Nat.reduceMul, Nat.reduceMod,
      Nat.reduceAdd, Nat.reduceSub, Nat.reduceDiv, Nat.reduceEqDiff, Nat.reduceLTLE,
      Nat.reduceLeDiff, Nat.reduceLT, Nat.reduceGT, Nat.reduceOr, Nat.reduceXor,
      reduceCtorEq, Bool.not_eq_true', Bool.not_eq_true, decide_eq_true_eq,
      decide_eq_false_iff_not, Bool.and_eq_true, Bool.or_eq_true, bne_iff_ne, beq_iff_eq,
      ne_eq, Bool.not_eq_false', Bool.not_eq_false, decide_not, not_not,
      Bool.decide_eq_true, Bool.false_eq_true, Bool.true_eq_false, not_false_eq_true,
      not_true_eq_false, and_true, true_and, and_false, false_and, or_true, true_or,
      or_false, false_or, not_true, not_false_iff, iff_self, true_iff, iff_true, false_iff,
      iff_false, ite_self, decide_eq_decide, decide_False, decide_True, Bool.not_true,
      Bool.not_false]
  all_goals omega

theorem pow_L7_c8 (cpu : Cpu) (s : Machine) :
    cc_equal (fast_pow.L_2TAG_PACKET_7_0_2_8 cpu (fast_pow.L_2TAG_PACKET_7_0_2_7 cpu (fast_pow.L_2TAG_PACKET_7_0_2_6 cpu (fast_pow.L_2TAG_PACKET_7_0_2_5 cpu (fast_pow.L_2TAG_PACKET_7_0_2_4 cpu (fast_pow.L_2TAG_PACKET_7_0_2_3 cpu (fast_pow.L_2TAG_PACKET_7_0_2_2 cpu (fast_pow.L_2TAG_PACKET_7_0_2_1 cpu s)))))))) = true ↔
      f64Add 0x4338000000000000 (s.get (.m 16) % 18446744073709551616) % 2 = 0 := by
  set_option maxRecDepth 8000 in
  simp only [
      ↓reduceIte, ↓fast_pow.pow_L_2TAG_PACKET_7_0_2_8_sem,
      ↓fast_pow.pow_L_2TAG_PACKET_7_0_2_7_sem, ↓fast_pow.pow_L_2TAG_PACKET_7_0_2_6_sem,
      ↓fast_pow.pow_L_2TAG_PACKET_7_0_2_5_sem, ↓fast_pow.pow_L_2TAG_PACKET_7_0_2_4_sem,
      ↓fast_pow.pow_L_2TAG_PACKET_7_0_2_3_sem, ↓fast_pow.pow_L_2TAG_PACKET_7_0_2_2_sem,
      ↓fast_pow.pow_L_2TAG_PACKET_7_0_2_1_sem, ↓Machine.get_setx, ↓Machine.get_setg,
      ↓Machine.get_setstk, ↓Machine.get_enter, ↓Machine.get_setFlags, ↓Machine.trace_set,
      ↓Machine.get_ite, ↓Machine.trace_ite, ↓Machine.obs_eq_get, ↓Machine.flags_get,
      ↓Machine.flags_trace, ↓sem_get_1, ↓sem_get_2, ↓sem_get_3, ↓sem_get_4, ↓sem_trace_1,
      ↓sem_trace_2, ↓sem_trace_3, ↓sem_trace_4, ↓load_const, cc_iff, ea, and_imm,
      and_imm_left, ilog2_lit, or_eq_zero, or_mod32, or_lt_2p31, Nat.mod_mod, Nat.zero_or,
      Nat.or_zero, Nat.sub_zero, Nat.add_mod_right, lane_eq, Machine.io_eq_get,
      Nat.xor_self, Loc.x.injEq, Loc.g.injEq, Loc.m.injEq, Bool.toNat_eq_zero,
      Bool.toNat_eq_one, Nat.reducePow, Nat.reduceMul, Nat.reduceMod, Nat.reduceAdd,
      Nat.reduceSub, Nat.reduceDiv, Nat.reduceEqDiff, Nat.reduceLTLE, Nat.reduceLeDiff,
      Nat.reduceLT, Nat.reduceGT, Nat.reduceOr, Nat.reduceXor, reduceCtorEq,
      Bool.not_eq_true', Bool.not_eq_true, decide_eq_true_eq, decide_eq_false_iff_not,
      Bool.and_eq_true, Bool.or_eq_true, bne_iff_ne, beq_iff_eq, ne_eq, Bool.not_eq_false',
      Bool.not_eq_false, decide_not, not_not, Bool.decide_eq_true, Bool.false_eq_true,
      Bool.true_eq_false, not_false_eq_true, not_true_eq_false, and_true, true_and,
      and_false, false_and, or_true, true_or, or_false, false_or, not_true, not_false_iff,
      iff_self, true_iff, iff_true, false_iff, iff_false, ite_self, decide_eq_decide,
      decide_False, decide_True, Bool.not_true, Bool.not_false]
  all_goals omega

/-! ### The bit tests of `L_2TAG_PACKET_32_0_2` and `L_2TAG_PACKET_33_0_2` -/

theorem pow_L32_c1 (cpu : Cpu) (s : Machine) :
    cc_above (fast_pow.L_2TAG_PACKET_32_0_2_1 cpu (fast_pow.L_2TAG_PACKET_7_0_2_5 cpu (fast_pow.L_2TAG_PACKET_7_0_2_4 cpu (fast_pow.L_2TAG_PACKET_7_0_2_3 cpu (fast_pow.L_2TAG_PACKET_7_0_2_2 cpu (fast_pow.L_2TAG_PACKET_7_0_2_1 cpu s)))))) = true ↔
      1074 < s.get (.m 16) / 4503599627370496 % 2048 := by
  set_option maxRecDepth 8000 in
  simp only [
      ↓reduceIte, ↓fast_pow.pow_L_2TAG_PACKET_32_0_2_1_sem,
      ↓fast_pow.pow_L_2TAG_PACKET_7_0_2_5_sem, ↓fast_pow.pow_L_2TAG_PACKET_7_0_2_4_sem,
      ↓fast_pow.pow_L_2TAG_PACKET_7_0_2_3_sem, ↓fast_pow.pow_L_2TAG_PACKET_7_0_2_2_sem,
      ↓fast_pow.pow_L_2TAG_PACKET_7_0_2_1_sem, ↓Machine.get_setx, ↓Machine.get_setg,
      ↓Machine.get_setstk, ↓Machine.get_enter, ↓Machine.get_setFlags, ↓Machine.trace_set,
      ↓Machine.get_ite, ↓Machine.trace_ite, ↓Machine.obs_eq_get, ↓Machine.flags_get,
      ↓Machine.flags_trace, ↓sem_get_1, ↓sem_get_2, ↓sem_get_3, ↓sem_get_4, ↓sem_trace_1,
      ↓sem_trace_2, ↓sem_trace_3, ↓sem_trace_4, ↓load_const, cc_iff, ea, and_imm,
      and_imm_left, ilog2_lit, or_eq_zero, or_mod32, or_lt_2p31, Nat.mod_mod, Nat.zero_or,
      Nat.or_zero, Nat.sub_zero, Nat.add_mod_right, lane_eq, Machine.io_eq_get,
      Nat.xor_self, Loc.x.injEq, Loc.g.injEq, Loc.m.injEq, Bool.toNat_eq_zero,
      Bool.toNat_eq_one, Nat.reducePow, Nat.reduceMul, Nat.reduceMod, Nat.reduceAdd,
      Nat.reduceSub, Nat.reduceDiv, Nat.reduceEqDiff, Nat.reduceLTLE, Nat.reduceLeDiff,
      Nat.reduceLT, Nat.reduceGT, Nat.reduceOr, Nat.reduceXor, reduceCtorEq,
      Bool.not_eq_true', Bool.not_eq_true, decide_eq_true_eq, decide_eq_false_iff_not,
      Bool.and_eq_true, Bool.or_eq_true, bne_iff_ne, beq_iff_eq, ne_eq, Bool.not_eq_false',
      Bool.not_eq_false, decide_not, not_not, Bool.decide_eq_true, Bool.false_eq_true,
      Bool.true_eq_false, not_false_eq_true, not_true_eq_false, and_true, true_and,
      and_false, false_and, or_true, true_or, or_false, false_or, not_true, not_false_iff,
      iff_self, true_iff, iff_true, false_iff, iff_false, ite_self, decide_eq_decide,
      decide_False, decide_True, Bool.not_true, Bool.not_false]
  all_goals omega

theorem pow_L32_c2 (cpu : Cpu) (s : Machine) :
    cc_notEqual (fast_pow.L_2TAG_PACKET_32_0_2_2 cpu (fast_pow.L_2TAG_PACKET_32_0_2_1 cpu (fast_pow.L_2TAG_PACKET_7_0_2_5 cpu (fast_pow.L_2TAG_PACKET_7_0_2_4 cpu (fast_pow.L_2TAG_PACKET_7_0_2_3 cpu (fast_pow.L_2TAG_PACKET_7_0_2_2 cpu (fast_pow.L_2TAG_PACKET_7_0_2_1 cpu s))))))) = true ↔ s.get (.m 16) % 2 = 1 := by
  set_option maxRecDepth 8000 in
  simp only [
      ↓reduceIte, ↓fast_pow.pow_L_2TAG_PACKET_32_0_2_2_sem,
      ↓fast_pow.pow_L_2TAG_PACKET_32_0_2_1_sem, ↓fast_pow.pow_L_2TAG_PACKET_7_0_2_5_sem,
      ↓fast_pow.pow_L_2TAG_PACKET_7_0_2_4_sem, ↓fast_pow.pow_L_2TAG_PACKET_7_0_2_3_sem,
      ↓fast_pow.pow_L_2TAG_PACKET_7_0_2_2_sem, ↓fast_pow.pow_L_2TAG_PACKET_7_0_2_1_sem,
      ↓Machine.get_setx, ↓Machine.get_setg, ↓Machine.get_setstk, ↓Machine.get_enter,
      ↓Machine.get_setFlags, ↓Machine.trace_set, ↓Machine.get_ite, ↓Machine.trace_ite,
      ↓Machine.obs_eq_get, ↓Machine.flags_get, ↓Machine.flags_trace, ↓sem_get_1, ↓sem_get_2,
      ↓sem_get_3, ↓sem_get_4, ↓sem_trace_1, ↓sem_trace_2, ↓sem_trace_3, ↓sem_trace_4,
      ↓load_const, cc_iff, ea, and_imm, and_imm_left, ilog2_lit, or_eq_zero, or_mod32,
      or_lt_2p31, Nat.mod_mod, Nat.zero_or, Nat.or_zero, Nat.sub_zero, Nat.add_mod_right,
      lane_eq, Machine.io_eq_get, Nat.xor_self, Loc.x.injEq, Loc.g.injEq, Loc.m.injEq,
      Bool.toNat_eq_zero, Bool.toNat_eq_one, Nat.reducePow, Nat.reduceMul, Nat.reduceMod,
      Nat.reduceAdd, Nat.reduceSub, Nat.reduceDiv, Nat.reduceEqDiff, Nat.reduceLTLE,
      Nat.reduceLeDiff, Nat.reduceLT, Nat.reduceGT, Nat.reduceOr, Nat.reduceXor,
      reduceCtorEq, Bool.not_eq_true', Bool.not_eq_true, decide_eq_true_eq,
      decide_eq_false_iff_not, Bool.and_eq_true, Bool.or_eq_true, bne_iff_ne, beq_iff_eq,
      ne_eq, Bool.not_eq_false', Bool.not_eq_false, decide_not, not_not,
      Bool.decide_eq_true, Bool.false_eq_true, Bool.true_eq_false, not_false_eq_true,
      not_true_eq_false, and_true, true_and, and_false, false_and, or_true, true_or,
      or_false, false_or, not_true, not_false_iff, iff_self, true_iff, iff_true, false_iff,
      iff_false, ite_self, decide_eq_decide, decide_False, decide_True, Bool.not_true,
      Bool.not_false]
  all_goals omega

theorem pow_L32_c3 (cpu : Cpu) (s : Machine) :
    cc_equal (fast_pow.L_2TAG_PACKET_32_0_2_3 cpu (fast_pow.L_2TAG_PACKET_32_0_2_2 cpu (fast_pow.L_2TAG_PACKET_32_0_2_1 cpu (fast_pow.L_2TAG_PACKET_7_0_2_5 cpu (fast_pow.L_2TAG_PACKET_7_0_2_4 cpu (fast_pow.L_2TAG_PACKET_7_0_2_3 cpu (fast_pow.L_2TAG_PACKET_7_0_2_2 cpu (fast_pow.L_2TAG_PACKET_7_0_2_1 cpu s)))))))) = true ↔ s.get (.m 16) / 2 % 2 = 0 := by
  set_option maxRecDepth 8000 in
  simp only [
      ↓reduceIte, ↓fast_pow.pow_L_2TAG_PACKET_32_0_2_3_sem,
      ↓fast_pow.pow_L_2TAG_PACKET_32_0_2_2_sem, ↓fast_pow.pow_L_2TAG_PACKET_32_0_2_1_sem,
      ↓fast_pow.pow_L_2TAG_PACKET_7_0_2_5_sem, ↓fast_pow.pow_L_2TAG_PACKET_7_0_2_4_sem,
      ↓fast_pow.pow_L_2TAG_PACKET_7_0_2_3_sem, ↓fast_pow.pow_L_2TAG_PACKET_7_0_2_2_sem,
      ↓fast_pow.pow_L_2TAG_PACKET_7_0_2_1_sem, ↓Machine.get_setx, ↓Machine.get_setg,
      ↓Machine.get_setstk, ↓Machine.get_enter, ↓Machine.get_setFlags, ↓Machine.trace_set,
      ↓Machine.get_ite, ↓Machine.trace_ite, ↓Machine.obs_eq_get, ↓Machine.flags_get,
      ↓Machine.flags_trace, ↓sem_get_1, ↓sem_get_2, ↓sem_get_3, ↓sem_get_4, ↓sem_trace_1,
      ↓sem_trace_2, ↓sem_trace_3, ↓sem_trace_4, ↓load_const, cc_iff, ea, and_imm,
      and_imm_left, ilog2_lit, or_eq_zero, or_mod32, or_lt_2p31, Nat.mod_mod, Nat.zero_or,
      Nat.or_zero, Nat.sub_zero, Nat.add_mod_right, lane_eq, Machine.io_eq_get,
      Nat.xor_self, Loc.x.injEq, Loc.g.injEq, Loc.m.injEq, Bool.toNat_eq_zero,
      Bool.toNat_eq_one, Nat.reducePow, Nat.reduceMul, Nat.reduceMod, Nat.reduceAdd,
      Nat.reduceSub, Nat.reduceDiv, Nat.reduceEqDiff, Nat.reduceLTLE, Nat.reduceLeDiff,
      Nat.reduceLT, Nat.reduceGT, Nat.reduceOr, Nat.reduceXor, reduceCtorEq,
      Bool.not_eq_true', Bool.not_eq_true, decide_eq_true_eq, decide_eq_false_iff_not,
      Bool.and_eq_true, Bool.or_eq_true, bne_iff_ne, beq_iff_eq, ne_eq, Bool.not_eq_false',
      Bool.not_eq_false, decide_not, not_not, Bool.decide_eq_true, Bool.false_eq_true,
      Bool.true_eq_false, not_false_eq_true, not_true_eq_false, and_true, true_and,
      and_false, false_and, or_true, true_or, or_false, false_or, not_true, not_false_iff,
      iff_self, true_iff, iff_true, false_iff, iff_false, ite_self, decide_eq_decide,
      decide_False, decide_True, Bool.not_true, Bool.not_false]
  all_goals omega

theorem pow_L33_c1 (cpu : Cpu) (s : Machine) :
    cc_equal (fast_pow.L_2TAG_PACKET_33_0_2_1 cpu (fast_pow.L_2TAG_PACKET_32_0_2_1 cpu (fast_pow.L_2TAG_PACKET_7_0_2_5 cpu (fast_pow.L_2TAG_PACKET_7_0_2_4 cpu (fast_pow.L_2TAG_PACKET_7_0_2_3 cpu (fast_pow.L_2TAG_PACKET_7_0_2_2 cpu (fast_pow.L_2TAG_PACKET_7_0_2_1 cpu s))))))) = true ↔ s.get (.m 16) % 2 = 0 := by
  set_option maxRecDepth 8000 in
  simp only [
      ↓reduceIte, ↓fast_pow.pow_L_2TAG_PACKET_33_0_2_1_sem,
      ↓fast_pow.pow_L_2TAG_PACKET_32_0_2_1_sem, ↓fast_pow.pow_L_2TAG_PACKET_7_0_2_5_sem,
      ↓fast_pow.pow_L_2TAG_PACKET_7_0_2_4_sem, ↓fast_pow.pow_L_2TAG_PACKET_7_0_2_3_sem,
      ↓fast_pow.pow_L_2TAG_PACKET_7_0_2_2_sem, ↓fast_pow.pow_L_2TAG_PACKET_7_0_2_1_sem,
      ↓Machine.get_setx, ↓Machine.get_setg, ↓Machine.get_setstk, ↓Machine.get_enter,
      ↓Machine.get_setFlags, ↓Machine.trace_set, ↓Machine.get_ite, ↓Machine.trace_ite,
      ↓Machine.obs_eq_get, ↓Machine.flags_get, ↓Machine.flags_trace, ↓sem_get_1, ↓sem_get_2,
      ↓sem_get_3, ↓sem_get_4, ↓sem_trace_1, ↓sem_trace_2, ↓sem_trace_3, ↓sem_trace_4,
      ↓load_const, cc_iff, ea, and_imm, and_imm_left, ilog2_lit, or_eq_zero, or_mod32,
      or_lt_2p31, Nat.mod_mod, Nat.zero_or, Nat.or_zero, Nat.sub_zero, Nat.add_mod_right,
      lane_eq, Machine.io_eq_get, Nat.xor_self, Loc.x.injEq, Loc.g.injEq, Loc.m.injEq,
      Bool.toNat_eq_zero, Bool.toNat_eq_one, Nat.reducePow, Nat.reduceMul, Nat.reduceMod,
      Nat.reduceAdd, Nat.reduceSub, Nat.reduceDiv, Nat.reduceEqDiff, Nat.reduceLTLE,
      Nat.reduceLeDiff, Nat.reduceLT, Nat.reduceGT, Nat.reduceOr, Nat.reduceXor,
      reduceCtorEq, Bool.not_eq_true', Bool.not_eq_true, decide_eq_true_eq,
      decide_eq_false_iff_not, Bool.and_eq_true, Bool.or_eq_true, bne_iff_ne, beq_iff_eq,
      ne_eq, Bool.not_eq_false', Bool.not_eq_false, decide_not, not_not,
      Bool.decide_eq_true, Bool.false_eq_true, Bool.true_eq_false, not_false_eq_true,
      not_true_eq_false, and_true, true_and, and_false, false_and, or_true, true_or,
      or_false, false_or, not_true, not_false_iff, iff_self, true_iff, iff_true, false_iff,
      iff_false, ite_self, decide_eq_decide, decide_False, decide_True, Bool.not_true,
      Bool.not_false]
  all_goals omega

/-! ### The outcome of the negative-base test -/

set_option maxHeartbeats 2000000 in
/-- The block `L_2TAG_PACKET_7_0_2`, entered with a non-zero `x` and a finite non-zero `y` in
their stack slots, continues at `L_2TAG_PACKET_34_0_2` when `y` is not an integer, at
`L_2TAG_PACKET_36_0_2` when `y` is an odd integer and at `L_2TAG_PACKET_35_0_2` when `y` is an
even integer, possibly through `L_2TAG_PACKET_32_0_2` and `L_2TAG_PACKET_33_0_2`. -/
theorem pow_L7_cases (cpu : Cpu) (s : Machine)
    (hx : s.get (.m 8) % 9223372036854775808 ≠ 0)
    (hy0 : s.get (.m 16) % 9223372036854775808 ≠ 0)
    (hyf : f64Exp (s.get (.m 16) % 18446744073709551616) < 2047) :
    ∃ u p, u.get (.m 8) = s.get (.m 8) ∧
      u.trace = p ++ Label.L_2TAG_PACKET_7_0_2 :: s.trace ∧
      (p = [] ∨ p = [Label.L_2TAG_PACKET_32_0_2] ∨
        p = [Label.L_2TAG_PACKET_33_0_2, Label.L_2TAG_PACKET_32_0_2]) ∧
      ((f64IsInteger (s.get (.m 16) % 18446744073709551616) = false ∧
          fast_pow.L_2TAG_PACKET_7_0_2 cpu s = fast_pow.L_2TAG_PACKET_34_0_2 cpu u) ∨
        (f64IsOddInteger (s.get (.m 16) % 18446744073709551616) = true ∧
          fast_pow.L_2TAG_PACKET_7_0_2 cpu s = fast_pow.L_2TAG_PACKET_36_0_2 cpu u) ∨
        (f64IsInteger (s.get (.m 16) % 18446744073709551616) = true ∧
          f64IsOddInteger (s.get (.m 16) % 18446744073709551616) = false ∧
          fast_pow.L_2TAG_PACKET_7_0_2 cpu s = fast_pow.L_2TAG_PACKET_35_0_2 cpu u)) := by
  have hE : f64Exp (s.get (.m 16) % 18446744073709551616) =
      s.get (.m 16) / 4503599627370496 % 2048 := by
    simp only [f64Exp, Nat.reducePow]
    omega
  have c1 := (pow_L7_c1 cpu s).not.2 hx
  have c2 := (pow_L7_c2 cpu s).not.2 hy0
  have c3 := (pow_L7_c3 cpu s).not.2 (by omega)
  have c4 := pow_L7_c4 cpu s
  have c5 := pow_L7_c5 cpu s
  have c6 := pow_L7_c6 cpu s
  have c7 := pow_L7_c7 cpu s
  have c8 := pow_L7_c8 cpu s
  have d1 := pow_L32_c1 cpu s
  have d2 := pow_L32_c2 cpu s
  have d3 := pow_L32_c3 cpu s
  have d4 := pow_L33_c1 cpu s
  generalize hy : s.get (.m 16) % 18446744073709551616 = y at hyf hE c7 c8 ⊢
  have hb0 : y % 2 = s.get (.m 16) % 2 := by omega
  have hb1 : y / 2 % 2 = s.get (.m 16) / 2 % 2 := by omega
  have hy63 : y % 9223372036854775808 ≠ 0 := by omega
  rw [fast_pow.pow_L_2TAG_PACKET_7_0_2_eq, if_neg c1, if_neg c2, if_neg c3]
  by_cases h4 : 1075 < f64Exp y
  · rw [if_pos (c4.2 (by omega))]
    have hi := int_big y h4 hyf
    refine ⟨(fast_pow.L_2TAG_PACKET_7_0_2_4 cpu (fast_pow.L_2TAG_PACKET_7_0_2_3 cpu (fast_pow.L_2TAG_PACKET_7_0_2_2 cpu (fast_pow.L_2TAG_PACKET_7_0_2_1 cpu s)))), [], ?_, ?_, Or.inl rfl, ?_⟩
    · set_option maxRecDepth 8000 in
      simp only [
          ↓reduceIte, ↓fast_pow.pow_L_2TAG_PACKET_7_0_2_4_sem,
          ↓fast_pow.pow_L_2TAG_PACKET_7_0_2_3_sem,
          ↓fast_pow.pow_L_2TAG_PACKET_7_0_2_2_sem,
          ↓fast_pow.pow_L_2TAG_PACKET_7_0_2_1_sem, ↓Machine.get_setx, ↓Machine.get_setg,
          ↓Machine.get_setstk, ↓Machine.get_enter, ↓Machine.get_setFlags,
          ↓Machine.trace_set, ↓Machine.get_ite, ↓Machine.trace_ite, ↓Machine.obs_eq_get,
          ↓Machine.flags_get, ↓Machine.flags_trace, ↓sem_get_1, ↓sem_get_2, ↓sem_get_3,
          ↓sem_get_4, ↓sem_trace_1, ↓sem_trace_2, ↓sem_trace_3, ↓sem_trace_4,
          ↓load_const, cc_iff, ea, and_imm, and_imm_left, ilog2_lit, or_eq_zero,
          or_mod32, or_lt_2p31, Nat.mod_mod, Nat.zero_or, Nat.or_zero, Nat.sub_zero,
          Nat.add_mod_right, lane_eq, Machine.io_eq_get, Nat.xor_self, Loc.x.injEq,
          Loc.g.injEq, Loc.m.injEq, Bool.toNat_eq_zero, Bool.toNat_eq_one,
          Nat.reducePow, Nat.reduceMul, Nat.reduceMod, Nat.reduceAdd, Nat.reduceSub,
          Nat.reduceDiv, Nat.reduceEqDiff, Nat.reduceLTLE, Nat.reduceLeDiff,
          Nat.reduceLT, Nat.reduceGT, Nat.reduceOr, Nat.reduceXor, reduceCtorEq,
          Bool.not_eq_true', Bool.not_eq_true, decide_eq_true_eq,
          decide_eq_false_iff_not, Bool.and_eq_true, Bool.or_eq_true, bne_iff_ne,
          beq_iff_eq, ne_eq, Bool.not_eq_false', Bool.not_eq_false, decide_not, not_not,
          Bool.decide_eq_true, Bool.false_eq_true, Bool.true_eq_false,
          not_false_eq_true, not_true_eq_false, and_true, true_and, and_false,
          false_and, or_true, true_or, or_false, false_or, not_true, not_false_iff,
          iff_self, true_iff, iff_true, false_iff, iff_false, ite_self,
          decide_eq_decide, decide_False, decide_True, Bool.not_true, Bool.not_false]
    · set_option maxRecDepth 8000 in
      simp only [
          ↓reduceIte, ↓fast_pow.pow_L_2TAG_PACKET_7_0_2_4_sem,
          ↓fast_pow.pow_L_2TAG_PACKET_7_0_2_3_sem,
          ↓fast_pow.pow_L_2TAG_PACKET_7_0_2_2_sem,
          ↓fast_pow.pow_L_2TAG_PACKET_7_0_2_1_sem, ↓Machine.get_setx, ↓Machine.get_setg,
          ↓Machine.get_setstk, ↓Machine.get_enter, ↓Machine.get_setFlags,
          ↓Machine.trace_set, ↓Machine.get_ite, ↓Machine.trace_ite, ↓Machine.obs_eq_get,
          ↓Machine.flags_get, ↓Machine.flags_trace, ↓sem_get_1, ↓sem_get_2, ↓sem_get_3,
          ↓sem_get_4, ↓sem_trace_1, ↓sem_trace_2, ↓sem_trace_3, ↓sem_trace_4,
          ↓load_const, cc_iff, ea, and_imm, and_imm_left, ilog2_lit, or_eq_zero,
          or_mod32, or_lt_2p31, Nat.mod_mod, Nat.zero_or, Nat.or_zero, Nat.sub_zero,
          Nat.add_mod_right, lane_eq, Machine.io_eq_get, Nat.xor_self, Loc.x.injEq,
          Loc.g.injEq, Loc.m.injEq, Bool.toNat_eq_zero, Bool.toNat_eq_one,
          Nat.reducePow, Nat.reduceMul, Nat.reduceMod, Nat.reduceAdd, Nat.reduceSub,
          Nat.reduceDiv, Nat.reduceEqDiff, Nat.reduceLTLE, Nat.reduceLeDiff,
          Nat.reduceLT, Nat.reduceGT, Nat.reduceOr, Nat.reduceXor, reduceCtorEq,
          Bool.not_eq_true', Bool.not_eq_true, decide_eq_true_eq,
          decide_eq_false_iff_not, Bool.and_eq_true, Bool.or_eq_true, bne_iff_ne,
          beq_iff_eq, ne_eq, Bool.not_eq_false', Bool.not_eq_false, decide_not, not_not,
          Bool.decide_eq_true, Bool.false_eq_true, Bool.true_eq_false,
          not_false_eq_true, not_true_eq_false, and_true, true_and, and_false,
          false_and, or_true, true_or, or_false, false_or, not_true, not_false_iff,
          iff_self, true_iff, iff_true, false_iff, iff_false, ite_self,
          decide_eq_decide, decide_False, decide_True, Bool.not_true, Bool.not_false]
      rfl
    · exact Or.inr (Or.inr ⟨hi.1, hi.2, rfl⟩)
  rw [if_neg (c4.not.2 (by omega))]
  by_cases h5 : 1074 ≤ f64Exp y
  · rw [if_pos (c5.2 (by omega)), fast_pow.pow_L_2TAG_PACKET_32_0_2_eq]
    by_cases h6 : 1074 < f64Exp y
    · rw [if_pos (d1.2 (by omega)), fast_pow.pow_L_2TAG_PACKET_33_0_2_eq]
      have hi := int_1075 y (by omega)
      by_cases hb : y % 2 = 0
      · rw [if_pos (d4.2 (by omega))]
        have ho : f64IsOddInteger y = false := by
          rw [← Bool.not_eq_true, hi.2]
          omega
        refine ⟨(fast_pow.L_2TAG_PACKET_33_0_2_1 cpu (fast_pow.L_2TAG_PACKET_32_0_2_1 cpu (fast_pow.L_2TAG_PACKET_7_0_2_5 cpu (fast_pow.L_2TAG_PACKET_7_0_2_4 cpu (fast_pow.L_2TAG_PACKET_7_0_2_3 cpu (fast_pow.L_2TAG_PACKET_7_0_2_2 cpu (fast_pow.L_2TAG_PACKET_7_0_2_1 cpu s))))))), [Label.L_2TAG_PACKET_33_0_2, Label.L_2TAG_PACKET_32_0_2], ?_, ?_, Or.inr (Or.inr rfl), ?_⟩
        · set_option maxRecDepth 8000 in
          simp only [
              ↓reduceIte, ↓fast_pow.pow_L_2TAG_PACKET_33_0_2_1_sem,
              ↓fast_pow.pow_L_2TAG_PACKET_32_0_2_1_sem,
              ↓fast_pow.pow_L_2TAG_PACKET_7_0_2_5_sem,
              ↓fast_pow.pow_L_2TAG_PACKET_7_0_2_4_sem,
              ↓fast_pow.pow_L_2TAG_PACKET_7_0_2_3_sem,
              ↓fast_pow.pow_L_2TAG_PACKET_7_0_2_2_sem,
              ↓fast_pow.pow_L_2TAG_PACKET_7_0_2_1_sem, ↓Machine.get_setx,
              ↓Machine.get_setg, ↓Machine.get_setstk, ↓Machine.get_enter,
              ↓Machine.get_setFlags, ↓Machine.trace_set, ↓Machine.get_ite,
              ↓Machine.trace_ite, ↓Machine.obs_eq_get, ↓Machine.flags_get,
              ↓Machine.flags_trace, ↓sem_get_1, ↓sem_get_2, ↓sem_get_3, ↓sem_get_4,
              ↓sem_trace_1, ↓sem_trace_2, ↓sem_trace_3, ↓sem_trace_4, ↓load_const,
              cc_iff, ea, and_imm, and_imm_left, ilog2_lit, or_eq_zero, or_mod32,
              or_lt_2p31, Nat.mod_mod, Nat.zero_or, Nat.or_zero, Nat.sub_zero,
              Nat.add_mod_right, lane_eq, Machine.io_eq_get, Nat.xor_self,
              Loc.x.injEq, Loc.g.injEq, Loc.m.injEq, Bool.toNat_eq_zero,
              Bool.toNat_eq_one, Nat.reducePow, Nat.reduceMul, Nat.reduceMod,
              Nat.reduceAdd, Nat.reduceSub, Nat.reduceDiv, Nat.reduceEqDiff,
              Nat.reduceLTLE, Nat.reduceLeDiff, Nat.reduceLT, Nat.reduceGT,
              Nat.reduceOr, Nat.reduceXor, reduceCtorEq, Bool.not_eq_true',
              Bool.not_eq_true, decide_eq_true_eq, decide_eq_false_iff_not,
              Bool.and_eq_true, Bool.or_eq_true, bne_iff_ne, beq_iff_eq, ne_eq,
              Bool.not_eq_false', Bool.not_eq_false, decide_not, not_not,
              Bool.decide_eq_true, Bool.false_eq_true, Bool.true_eq_false,
              not_false_eq_true, not_true_eq_false, and_true, true_and, and_false,
              false_and, or_true, true_or, or_false, false_or, not_true,
              not_false_iff, iff_self, true_iff, iff_true, false_iff, iff_false,
              ite_self, decide_eq_decide, decide_False, decide_True, Bool.not_true,
              Bool.not_false]
        · set_option maxRecDepth 8000 in
          simp only [
              ↓reduceIte, ↓fast_pow.pow_L_2TAG_PACKET_33_0_2_1_sem,
              ↓fast_pow.pow_L_2TAG_PACKET_32_0_2_1_sem,
              ↓fast_pow.pow_L_2TAG_PACKET_7_0_2_5_sem,
              ↓fast_pow.pow_L_2TAG_PACKET_7_0_2_4_sem,
              ↓fast_pow.pow_L_2TAG_PACKET_7_0_2_3_sem,
              ↓fast_pow.pow_L_2TAG_PACKET_7_0_2_2_sem,
              ↓fast_pow.pow_L_2TAG_PACKET_7_0_2_1_sem, ↓Machine.get_setx,
              ↓Machine.get_setg, ↓Machine.get_setstk, ↓Machine.get_enter,
              ↓Machine.get_setFlags, ↓Machine.trace_set, ↓Machine.get_ite,
              ↓Machine.trace_ite, ↓Machine.obs_eq_get, ↓Machine.flags_get,
              ↓Machine.flags_trace, ↓sem_get_1, ↓sem_get_2, ↓sem_get_3, ↓sem_get_4,
              ↓sem_trace_1, ↓sem_trace_2, ↓sem_trace_3, ↓sem_trace_4, ↓load_const,
              cc_iff, ea, and_imm, and_imm_left, ilog2_lit, or_eq_zero, or_mod32,
              or_lt_2p31, Nat.mod_mod, Nat.zero_or, Nat.or_zero, Nat.sub_zero,
              Nat.add_mod_right, lane_eq, Machine.io_eq_get, Nat.xor_self,
              Loc.x.injEq, Loc.g.injEq, Loc.m.injEq, Bool.toNat_eq_zero,
              Bool.toNat_eq_one, Nat.reducePow, Nat.reduceMul, Nat.reduceMod,
              Nat.reduceAdd, Nat.reduceSub, Nat.reduceDiv, Nat.reduceEqDiff,
              Nat.reduceLTLE, Nat.reduceLeDiff, Nat.reduceLT, Nat.reduceGT,
              Nat.reduceOr, Nat.reduceXor, reduceCtorEq, Bool.not_eq_true',
              Bool.not_eq_true, decide_eq_true_eq, decide_eq_false_iff_not,
              Bool.and_eq_true, Bool.or_eq_true, bne_iff_ne, beq_iff_eq, ne_eq,
              Bool.not_eq_false', Bool.not_eq_false, decide_not, not_not,
              Bool.decide_eq_true, Bool.false_eq_true, Bool.true_eq_false,
              not_false_eq_true, not_true_eq_false, and_true, true_and, and_false,
              false_and, or_true, true_or, or_false, false_or, not_true,
              not_false_iff, iff_self, true_iff, iff_true, false_iff, iff_false,
              ite_self, decide_eq_decide, decide_False, decide_True, Bool.not_true,
              Bool.not_false]
          rfl
        · exact Or.inr (Or.inr ⟨hi.1, ho, rfl⟩)
      · rw [if_neg (d4.not.2 (by omega))]
        refine ⟨(fast_pow.L_2TAG_PACKET_33_0_2_2 cpu (fast_pow.L_2TAG_PACKET_33_0_2_1 cpu (fast_pow.L_2TAG_PACKET_32_0_2_1 cpu (fast_pow.L_2TAG_PACKET_7_0_2_5 cpu (fast_pow.L_2TAG_PACKET_7_0_2_4 cpu (fast_pow.L_2TAG_PACKET_7_0_2_3 cpu (fast_pow.L_2TAG_PACKET_7_0_2_2 cpu (fast_pow.L_2TAG_PACKET_7_0_2_1 cpu s)))))))), [Label.L_2TAG_PACKET_33_0_2, Label.L_2TAG_PACKET_32_0_2], ?_, ?_, Or.inr (Or.inr rfl), ?_⟩
        · set_option maxRecDepth 8000 in
          simp only [
              ↓reduceIte, ↓fast_pow.pow_L_2TAG_PACKET_33_0_2_2_sem,
              ↓fast_pow.pow_L_2TAG_PACKET_33_0_2_1_sem,
              ↓fast_pow.pow_L_2TAG_PACKET_32_0_2_1_sem,
              ↓fast_pow.pow_L_2TAG_PACKET_7_0_2_5_sem,
              ↓fast_pow.pow_L_2TAG_PACKET_7_0_2_4_sem,
              ↓fast_pow.pow_L_2TAG_PACKET_7_0_2_3_sem,
              ↓fast_pow.pow_L_2TAG_PACKET_7_0_2_2_sem,
              ↓fast_pow.pow_L_2TAG_PACKET_7_0_2_1_sem, ↓Machine.get_setx,
              ↓Machine.get_setg, ↓Machine.get_setstk, ↓Machine.get_enter,
              ↓Machine.get_setFlags, ↓Machine.trace_set, ↓Machine.get_ite,
              ↓Machine.trace_ite, ↓Machine.obs_eq_get, ↓Machine.flags_get,
              ↓Machine.flags_trace, ↓sem_get_1, ↓sem_get_2, ↓sem_get_3, ↓sem_get_4,
              ↓sem_trace_1, ↓sem_trace_2, ↓sem_trace_3, ↓sem_trace_4, ↓load_const,
              cc_iff, ea, and_imm, and_imm_left, ilog2_lit, or_eq_zero, or_mod32,
              or_lt_2p31, Nat.mod_mod, Nat.zero_or, Nat.or_zero, Nat.sub_zero,
              Nat.add_mod_right, lane_eq, Machine.io_eq_get, Nat.xor_self,
              Loc.x.injEq, Loc.g.injEq, Loc.m.injEq, Bool.toNat_eq_zero,
              Bool.toNat_eq_one, Nat.reducePow, Nat.reduceMul, Nat.reduceMod,
              Nat.reduceAdd, Nat.reduceSub, Nat.reduceDiv, Nat.reduceEqDiff,
              Nat.reduceLTLE, Nat.reduceLeDiff, Nat.reduceLT, Nat.reduceGT,
              Nat.reduceOr, Nat.reduceXor, reduceCtorEq, Bool.not_eq_true',
              Bool.not_eq_true, decide_eq_true_eq, decide_eq_false_iff_not,
              Bool.and_eq_true, Bool.or_eq_true, bne_iff_ne, beq_iff_eq, ne_eq,
              Bool.not_eq_false', Bool.not_eq_false, decide_not, not_not,
              Bool.decide_eq_true, Bool.false_eq_true, Bool.true_eq_false,
              not_false_eq_true, not_true_eq_false, and_true, true_and, and_false,
              false_and, or_true, true_or, or_false, false_or, not_true,
              not_false_iff, iff_self, true_iff, iff_true, false_iff, iff_false,
              ite_self, decide_eq_decide, decide_False, decide_True, Bool.not_true,
              Bool.not_false]
        · set_option maxRecDepth 8000 in
          simp only [
              ↓reduceIte, ↓fast_pow.pow_L_2TAG_PACKET_33_0_2_2_sem,
              ↓fast_pow.pow_L_2TAG_PACKET_33_0_2_1_sem,
              ↓fast_pow.pow_L_2TAG_PACKET_32_0_2_1_sem,
              ↓fast_pow.pow_L_2TAG_PACKET_7_0_2_5_sem,
              ↓fast_pow.pow_L_2TAG_PACKET_7_0_2_4_sem,
              ↓fast_pow.pow_L_2TAG_PACKET_7_0_2_3_sem,
              ↓fast_pow.pow_L_2TAG_PACKET_7_0_2_2_sem,
              ↓fast_pow.pow_L_2TAG_PACKET_7_0_2_1_sem, ↓Machine.get_setx,
              ↓Machine.get_setg, ↓Machine.get_setstk, ↓Machine.get_enter,
              ↓Machine.get_setFlags, ↓Machine.trace_set, ↓Machine.get_ite,
              ↓Machine.trace_ite, ↓Machine.obs_eq_get, ↓Machine.flags_get,
              ↓Machine.flags_trace, ↓sem_get_1, ↓sem_get_2, ↓sem_get_3, ↓sem_get_4,
              ↓sem_trace_1, ↓sem_trace_2, ↓sem_trace_3, ↓sem_trace_4, ↓load_const,
              cc_iff, ea, and_imm, and_imm_left, ilog2_lit, or_eq_zero, or_mod32,
              or_lt_2p31, Nat.mod_mod, Nat.zero_or, Nat.or_zero, Nat.sub_zero,
              Nat.add_mod_right, lane_eq, Machine.io_eq_get, Nat.xor_self,
              Loc.x.injEq, Loc.g.injEq, Loc.m.injEq, Bool.toNat_eq_zero,
              Bool.toNat_eq_one, Nat.reducePow, Nat.reduceMul, Nat.reduceMod,
              Nat.reduceAdd, Nat.reduceSub, Nat.reduceDiv, Nat.reduceEqDiff,
              Nat.reduceLTLE, Nat.reduceLeDiff, Nat.reduceLT, Nat.reduceGT,
              Nat.reduceOr, Nat.reduceXor, reduceCtorEq, Bool.not_eq_true',
              Bool.not_eq_true, decide_eq_true_eq, decide_eq_false_iff_not,
              Bool.and_eq_true, Bool.or_eq_true, bne_iff_ne, beq_iff_eq, ne_eq,
              Bool.not_eq_false', Bool.not_eq_false, decide_not, not_not,
              Bool.decide_eq_true, Bool.false_eq_true, Bool.true_eq_false,
              not_false_eq_true, not_true_eq_false, and_true, true_and, and_false,
              false_and, or_true, true_or, or_false, false_or, not_true,
              not_false_iff, iff_self, true_iff, iff_true, false_iff, iff_false,
              ite_self, decide_eq_decide, decide_False, decide_True, Bool.not_true,
              Bool.not_false]
          rfl
        · exact Or.inr (Or.inl ⟨hi.2.2 (by omega), rfl⟩)
    · rw [if_neg (d1.not.2 (by omega))]
      have hi := int_1074 y (by omega)
      by_cases hb : y % 2 = 1
      · rw [if_pos (d2.2 (by omega))]
        have hn : f64IsInteger y = false := by
          rw [← Bool.not_eq_true, hi.1]
          omega
        refine ⟨(fast_pow.L_2TAG_PACKET_32_0_2_2 cpu (fast_pow.L_2TAG_PACKET_32_0_2_1 cpu (fast_pow.L_2TAG_PACKET_7_0_2_5 cpu (fast_pow.L_2TAG_PACKET_7_0_2_4 cpu (fast_pow.L_2TAG_PACKET_7_0_2_3 cpu (fast_pow.L_2TAG_PACKET_7_0_2_2 cpu (fast_pow.L_2TAG_PACKET_7_0_2_1 cpu s))))))), [Label.L_2TAG_PACKET_32_0_2], ?_, ?_, Or.inr (Or.inl rfl), ?_⟩
        · set_option maxRecDepth 8000 in
          simp only [
              ↓reduceIte, ↓fast_pow.pow_L_2TAG_PACKET_32_0_2_2_sem,
              ↓fast_pow.pow_L_2TAG_PACKET_32_0_2_1_sem,
              ↓fast_pow.pow_L_2TAG_PACKET_7_0_2_5_sem,
              ↓fast_pow.pow_L_2TAG_PACKET_7_0_2_4_sem,
              ↓fast_pow.pow_L_2TAG_PACKET_7_0_2_3_sem,
              ↓fast_pow.pow_L_2TAG_PACKET_7_0_2_2_sem,
              ↓fast_pow.pow_L_2TAG_PACKET_7_0_2_1_sem, ↓Machine.get_setx,
              ↓Machine.get_setg, ↓Machine.get_setstk, ↓Machine.get_enter,
              ↓Machine.get_setFlags, ↓Machine.trace_set, ↓Machine.get_ite,
              ↓Machine.trace_ite, ↓Machine.obs_eq_get, ↓Machine.flags_get,
              ↓Machine.flags_trace, ↓sem_get_1, ↓sem_get_2, ↓sem_get_3, ↓sem_get_4,
              ↓sem_trace_1, ↓sem_trace_2, ↓sem_trace_3, ↓sem_trace_4, ↓load_const,
              cc_iff, ea, and_imm, and_imm_left, ilog2_lit, or_eq_zero, or_mod32,
              or_lt_2p31, Nat.mod_mod, Nat.zero_or, Nat.or_zero, Nat.sub_zero,
              Nat.add_mod_right, lane_eq, Machine.io_eq_get, Nat.xor_self,
              Loc.x.injEq, Loc.g.injEq, Loc.m.injEq, Bool.toNat_eq_zero,
              Bool.toNat_eq_one, Nat.reducePow, Nat.reduceMul, Nat.reduceMod,
              Nat.reduceAdd, Nat.reduceSub, Nat.reduceDiv, Nat.reduceEqDiff,
              Nat.reduceLTLE, Nat.reduceLeDiff, Nat.reduceLT, Nat.reduceGT,
              Nat.reduceOr, Nat.reduceXor, reduceCtorEq, Bool.not_eq_true',
              Bool.not_eq_true, decide_eq_true_eq, decide_eq_false_iff_not,
              Bool.and_eq_true, Bool.or_eq_true, bne_iff_ne, beq_iff_eq, ne_eq,
              Bool.not_eq_false', Bool.not_eq_false, decide_not, not_not,
              Bool.decide_eq_true, Bool.false_eq_true, Bool.true_eq_false,
              not_false_eq_true, not_true_eq_false, and_true, true_and, and_false,
              false_and, or_true, true_or, or_false, false_or, not_true,
              not_false_iff, iff_self, true_iff, iff_true, false_iff, iff_false,
              ite_self, decide_eq_decide, decide_False, decide_True, Bool.not_true,
              Bool.not_false]
        · set_option maxRecDepth 8000 in
          simp only [
              ↓reduceIte, ↓fast_pow.pow_L_2TAG_PACKET_32_0_2_2_sem,
              ↓fast_pow.pow_L_2TAG_PACKET_32_0_2_1_sem,
              ↓fast_pow.pow_L_2TAG_PACKET_7_0_2_5_sem,
              ↓fast_pow.pow_L_2TAG_PACKET_7_0_2_4_sem,
              ↓fast_pow.pow_L_2TAG_PACKET_7_0_2_3_sem,
              ↓fast_pow.pow_L_2TAG_PACKET_7_0_2_2_sem,
              ↓fast_pow.pow_L_2TAG_PACKET_7_0_2_1_sem, ↓Machine.get_setx,
              ↓Machine.get_setg, ↓Machine.get_setstk, ↓Machine.get_enter,
              ↓Machine.get_setFlags, ↓Machine.trace_set, ↓Machine.get_ite,
              ↓Machine.trace_ite, ↓Machine.obs_eq_get, ↓Machine.flags_get,
              ↓Machine.flags_trace, ↓sem_get_1, ↓sem_get_2, ↓sem_get_3, ↓sem_get_4,
              ↓sem_trace_1, ↓sem_trace_2, ↓sem_trace_3, ↓sem_trace_4, ↓load_const,
              cc_iff, ea, and_imm, and_imm_left, ilog2_lit, or_eq_zero, or_mod32,
              or_lt_2p31, Nat.mod_mod, Nat.zero_or, Nat.or_zero, Nat.sub_zero,
              Nat.add_mod_right, lane_eq, Machine.io_eq_get, Nat.xor_self,
              Loc.x.injEq, Loc.g.injEq, Loc.m.injEq, Bool.toNat_eq_zero,
              Bool.toNat_eq_one, Nat.reducePow, Nat.reduceMul, Nat.reduceMod,
              Nat.reduceAdd, Nat.reduceSub, Nat.reduceDiv, Nat.reduceEqDiff,
              Nat.reduceLTLE, Nat.reduceLeDiff, Nat.reduceLT, Nat.reduceGT,
              Nat.reduceOr, Nat.reduceXor, reduceCtorEq, Bool.not_eq_true',
              Bool.not_eq_true, decide_eq_true_eq, decide_eq_false_iff_not,
              Bool.and_eq_true, Bool.or_eq_true, bne_iff_ne, beq_iff_eq, ne_eq,
              Bool.not_eq_false', Bool.not_eq_false, decide_not, not_not,
              Bool.decide_eq_true, Bool.false_eq_true, Bool.true_eq_false,
              not_false_eq_true, not_true_eq_false, and_true, true_and, and_false,
              false_and, or_true, true_or, or_false, false_or, not_true,
              not_false_iff, iff_self, true_iff, iff_true, false_iff, iff_false,
              ite_self, decide_eq_decide, decide_False, decide_True, Bool.not_true,
              Bool.not_false]
          rfl
        · exact Or.inl ⟨hn, rfl⟩
      · rw [if_neg (d2.not.2 (by omega))]
        by_cases hb2 : y / 2 % 2 = 0
        · rw [if_pos (d3.2 (by omega))]
          have ho : f64IsOddInteger y = false := by
            rw [← Bool.not_eq_true, hi.2]
            omega
          refine ⟨(fast_pow.L_2TAG_PACKET_32_0_2_3 cpu (fast_pow.L_2TAG_PACKET_32_0_2_2 cpu (fast_pow.L_2TAG_PACKET_32_0_2_1 cpu (fast_pow.L_2TAG_PACKET_7_0_2_5 cpu (fast_pow.L_2TAG_PACKET_7_0_2_4 cpu (fast_pow.L_2TAG_PACKET_7_0_2_3 cpu (fast_pow.L_2TAG_PACKET_7_0_2_2 cpu (fast_pow.L_2TAG_PACKET_7_0_2_1 cpu s)))))))), [Label.L_2TAG_PACKET_32_0_2], ?_, ?_, Or.inr (Or.inl rfl), ?_⟩
          · set_option maxRecDepth 8000 in
            simp only [
                ↓reduceIte, ↓fast_pow.pow_L_2TAG_PACKET_32_0_2_3_sem,
                ↓fast_pow.pow_L_2TAG_PACKET_32_0_2_2_sem,
                ↓fast_pow.pow_L_2TAG_PACKET_32_0_2_1_sem,
                ↓fast_pow.pow_L_2TAG_PACKET_7_0_2_5_sem,
                ↓fast_pow.pow_L_2TAG_PACKET_7_0_2_4_sem,
                ↓fast_pow.pow_L_2TAG_PACKET_7_0_2_3_sem,
                ↓fast_pow.pow_L_2TAG_PACKET_7_0_2_2_sem,
                ↓fast_pow.pow_L_2TAG_PACKET_7_0_2_1_sem, ↓Machine.get_setx,
                ↓Machine.get_setg, ↓Machine.get_setstk, ↓Machine.get_enter,
                ↓Machine.get_setFlags, ↓Machine.trace_set, ↓Machine.get_ite,
                ↓Machine.trace_ite, ↓Machine.obs_eq_get, ↓Machine.flags_get,
                ↓Machine.flags_trace, ↓sem_get_1, ↓sem_get_2, ↓sem_get_3,
                ↓sem_get_4, ↓sem_trace_1, ↓sem_trace_2, ↓sem_trace_3,
                ↓sem_trace_4, ↓load_const, cc_iff, ea, and_imm, and_imm_left,
                ilog2_lit, or_eq_zero, or_mod32, or_lt_2p31, Nat.mod_mod,
                Nat.zero_or, Nat.or_zero, Nat.sub_zero, Nat.add_mod_right,
                lane_eq, Machine.io_eq_get, Nat.xor_self, Loc.x.injEq,
                Loc.g.injEq, Loc.m.injEq, Bool.toNat_eq_zero, Bool.toNat_eq_one,
                Nat.reducePow, Nat.reduceMul, Nat.reduceMod, Nat.reduceAdd,
                Nat.reduceSub, Nat.reduceDiv, Nat.reduceEqDiff, Nat.reduceLTLE,
                Nat.reduceLeDiff, Nat.reduceLT, Nat.reduceGT, Nat.reduceOr,
                Nat.reduceXor, reduceCtorEq, Bool.not_eq_true', Bool.not_eq_true,
                decide_eq_true_eq, decide_eq_false_iff_not, Bool.and_eq_true,
                Bool.or_eq_true, bne_iff_ne, beq_iff_eq, ne_eq,
                Bool.not_eq_false', Bool.not_eq_false, decide_not, not_not,
                Bool.decide_eq_true, Bool.false_eq_true, Bool.true_eq_false,
                not_false_eq_true, not_true_eq_false, and_true, true_and,
                and_false, false_and, or_true, true_or, or_false, false_or,
                not_true, not_false_iff, iff_self, true_iff, iff_true, false_iff,
                iff_false, ite_self, decide_eq_decide, decide_False, decide_True,
                Bool.not_true, Bool.not_false]
          · set_option maxRecDepth 8000 in
            simp only [
                ↓reduceIte, ↓fast_pow.pow_L_2TAG_PACKET_32_0_2_3_sem,
                ↓fast_pow.pow_L_2TAG_PACKET_32_0_2_2_sem,
                ↓fast_pow.pow_L_2TAG_PACKET_32_0_2_1_sem,
                ↓fast_pow.pow_L_2TAG_PACKET_7_0_2_5_sem,
                ↓fast_pow.pow_L_2TAG_PACKET_7_0_2_4_sem,
                ↓fast_pow.pow_L_2TAG_PACKET_7_0_2_3_sem,
                ↓fast_pow.pow_L_2TAG_PACKET_7_0_2_2_sem,
                ↓fast_pow.pow_L_2TAG_PACKET_7_0_2_1_sem, ↓Machine.get_setx,
                ↓Machine.get_setg, ↓Machine.get_setstk, ↓Machine.get_enter,
                ↓Machine.get_setFlags, ↓Machine.trace_set, ↓Machine.get_ite,
                ↓Machine.trace_ite, ↓Machine.obs_eq_get, ↓Machine.flags_get,
                ↓Machine.flags_trace, ↓sem_get_1, ↓sem_get_2, ↓sem_get_3,
                ↓sem_get_4, ↓sem_trace_1, ↓sem_trace_2, ↓sem_trace_3,
                ↓sem_trace_4, ↓load_const, cc_iff, ea, and_imm, and_imm_left,
                ilog2_lit, or_eq_zero, or_mod32, or_lt_2p31, Nat.mod_mod,
                Nat.zero_or, Nat.or_zero, Nat.sub_zero, Nat.add_mod_right,
                lane_eq, Machine.io_eq_get, Nat.xor_self, Loc.x.injEq,
                Loc.g.injEq, Loc.m.injEq, Bool.toNat_eq_zero, Bool.toNat_eq_one,
                Nat.reducePow, Nat.reduceMul, Nat.reduceMod, Nat.reduceAdd,
                Nat.reduceSub, Nat.reduceDiv, Nat.reduceEqDiff, Nat.reduceLTLE,
                Nat.reduceLeDiff, Nat.reduceLT, Nat.reduceGT, Nat.reduceOr,
                Nat.reduceXor, reduceCtorEq, Bool.not_eq_true', Bool.not_eq_true,
                decide_eq_true_eq, decide_eq_false_iff_not, Bool.and_eq_true,
                Bool.or_eq_true, bne_iff_ne, beq_iff_eq, ne_eq,
                Bool.not_eq_false', Bool.not_eq_false, decide_not, not_not,
                Bool.decide_eq_true, Bool.false_eq_true, Bool.true_eq_false,
                not_false_eq_true, not_true_eq_false, and_true, true_and,
                and_false, false_and, or_true, true_or, or_false, false_or,
                not_true, not_false_iff, iff_self, true_iff, iff_true, false_iff,
                iff_false, ite_self, decide_eq_decide, decide_False, decide_True,
                Bool.not_true, Bool.not_false]
            rfl
          · exact Or.inr (Or.inr ⟨hi.1.2 (by omega), ho, rfl⟩)
        · rw [if_neg (d3.not.2 (by omega))]
          refine ⟨(fast_pow.L_2TAG_PACKET_32_0_2_4 cpu (fast_pow.L_2TAG_PACKET_32_0_2_3 cpu (fast_pow.L_2TAG_PACKET_32_0_2_2 cpu (fast_pow.L_2TAG_PACKET_32_0_2_1 cpu (fast_pow.L_2TAG_PACKET_7_0_2_5 cpu (fast_pow.L_2TAG_PACKET_7_0_2_4 cpu (fast_pow.L_2TAG_PACKET_7_0_2_3 cpu (fast_pow.L_2TAG_PACKET_7_0_2_2 cpu (fast_pow.L_2TAG_PACKET_7_0_2_1 cpu s))))))))), [Label.L_2TAG_PACKET_32_0_2], ?_, ?_, Or.inr (Or.inl rfl), ?_⟩
          · set_option maxRecDepth 8000 in
            simp only [
                ↓reduceIte, ↓fast_pow.pow_L_2TAG_PACKET_32_0_2_4_sem,
                ↓fast_pow.pow_L_2TAG_PACKET_32_0_2_3_sem,
                ↓fast_pow.pow_L_2TAG_PACKET_32_0_2_2_sem,
                ↓fast_pow.pow_L_2TAG_PACKET_32_0_2_1_sem,
                ↓fast_pow.pow_L_2TAG_PACKET_7_0_2_5_sem,
                ↓fast_pow.pow_L_2TAG_PACKET_7_0_2_4_sem,
                ↓fast_pow.pow_L_2TAG_PACKET_7_0_2_3_sem,
                ↓fast_pow.pow_L_2TAG_PACKET_7_0_2_2_sem,
                ↓fast_pow.pow_L_2TAG_PACKET_7_0_2_1_sem, ↓Machine.get_setx,
                ↓Machine.get_setg, ↓Machine.get_setstk, ↓Machine.get_enter,
                ↓Machine.get_setFlags, ↓Machine.trace_set, ↓Machine.get_ite,
                ↓Machine.trace_ite, ↓Machine.obs_eq_get, ↓Machine.flags_get,
                ↓Machine.flags_trace, ↓sem_get_1, ↓sem_get_2, ↓sem_get_3,
                ↓sem_get_4, ↓sem_trace_1, ↓sem_trace_2, ↓sem_trace_3,
                ↓sem_trace_4, ↓load_const, cc_iff, ea, and_imm, and_imm_left,
                ilog2_lit, or_eq_zero, or_mod32, or_lt_2p31, Nat.mod_mod,
                Nat.zero_or, Nat.or_zero, Nat.sub_zero, Nat.add_mod_right,
                lane_eq, Machine.io_eq_get, Nat.xor_self, Loc.x.injEq,
                Loc.g.injEq, Loc.m.injEq, Bool.toNat_eq_zero, Bool.toNat_eq_one,
                Nat.reducePow, Nat.reduceMul, Nat.reduceMod, Nat.reduceAdd,
                Nat.reduceSub, Nat.reduceDiv, Nat.reduceEqDiff, Nat.reduceLTLE,
                Nat.reduceLeDiff, Nat.reduceLT, Nat.reduceGT, Nat.reduceOr,
                Nat.reduceXor, reduceCtorEq, Bool.not_eq_true', Bool.not_eq_true,
                decide_eq_true_eq, decide_eq_false_iff_not, Bool.and_eq_true,
                Bool.or_eq_true, bne_iff_ne, beq_iff_eq, ne_eq,
                Bool.not_eq_false', Bool.not_eq_false, decide_not, not_not,
                Bool.decide_eq_true, Bool.false_eq_true, Bool.true_eq_false,
                not_false_eq_true, not_true_eq_false, and_true, true_and,
                and_false, false_and, or_true, true_or, or_false, false_or,
                not_true, not_false_iff, iff_self, true_iff, iff_true, false_iff,
                iff_false, ite_self, decide_eq_decide, decide_False, decide_True,
                Bool.not_true, Bool.not_false]
          · set_option maxRecDepth 8000 in
            simp only [
                ↓reduceIte, ↓fast_pow.pow_L_2TAG_PACKET_32_0_2_4_sem,
                ↓fast_pow.pow_L_2TAG_PACKET_32_0_2_3_sem,
                ↓fast_pow.pow_L_2TAG_PACKET_32_0_2_2_sem,
                ↓fast_pow.pow_L_2TAG_PACKET_32_0_2_1_sem,
                ↓fast_pow.pow_L_2TAG_PACKET_7_0_2_5_sem,
                ↓fast_pow.pow_L_2TAG_PACKET_7_0_2_4_sem,
                ↓fast_pow.pow_L_2TAG_PACKET_7_0_2_3_sem,
                ↓fast_pow.pow_L_2TAG_PACKET_7_0_2_2_sem,
                ↓fast_pow.pow_L_2TAG_PACKET_7_0_2_1_sem, ↓Machine.get_setx,
                ↓Machine.get_setg, ↓Machine.get_setstk, ↓Machine.get_enter,
                ↓Machine.get_setFlags, ↓Machine.trace_set, ↓Machine.get_ite,
                ↓Machine.trace_ite, ↓Machine.obs_eq_get, ↓Machine.flags_get,
                ↓Machine.flags_trace, ↓sem_get_1, ↓sem_get_2, ↓sem_get_3,
                ↓sem_get_4, ↓sem_trace_1, ↓sem_trace_2, ↓sem_trace_3,
                ↓sem_trace_4, ↓load_const, cc_iff, ea, and_imm, and_imm_left,
                ilog2_lit, or_eq_zero, or_mod32, or_lt_2p31, Nat.mod_mod,
                Nat.zero_or, Nat.or_zero, Nat.sub_zero, Nat.add_mod_right,
                lane_eq, Machine.io_eq_get, Nat.xor_self, Loc.x.injEq,
                Loc.g.injEq, Loc.m.injEq, Bool.toNat_eq_zero, Bool.toNat_eq_one,
                Nat.reducePow, Nat.reduceMul, Nat.reduceMod, Nat.reduceAdd,
                Nat.reduceSub, Nat.reduceDiv, Nat.reduceEqDiff, Nat.reduceLTLE,
                Nat.reduceLeDiff, Nat.reduceLT, Nat.reduceGT, Nat.reduceOr,
                Nat.reduceXor, reduceCtorEq, Bool.not_eq_true', Bool.not_eq_true,
                decide_eq_true_eq, decide_eq_false_iff_not, Bool.and_eq_true,
                Bool.or_eq_true, bne_iff_ne, beq_iff_eq, ne_eq,
                Bool.not_eq_false', Bool.not_eq_false, decide_not, not_not,
                Bool.decide_eq_true, Bool.false_eq_true, Bool.true_eq_false,
                not_false_eq_true, not_true_eq_false, and_true, true_and,
                and_false, false_and, or_true, true_or, or_false, false_or,
                not_true, not_false_iff, iff_self, true_iff, iff_true, false_iff,
                iff_false, ite_self, decide_eq_decide, decide_False, decide_True,
                Bool.not_true, Bool.not_false]
            rfl
          · exact Or.inr (Or.inl ⟨hi.2.2 ⟨by omega, by omega⟩, rfl⟩)
  rw [if_neg (c5.not.2 (by omega))]
  by_cases h6 : f64Exp y < 1023
  · rw [if_pos (c6.2 (by omega))]
    have hi := int_small y hy63 h6
    refine ⟨(fast_pow.L_2TAG_PACKET_7_0_2_6 cpu (fast_pow.L_2TAG_PACKET_7_0_2_5 cpu (fast_pow.L_2TAG_PACKET_7_0_2_4 cpu (fast_pow.L_2TAG_PACKET_7_0_2_3 cpu (fast_pow.L_2TAG_PACKET_7_0_2_2 cpu (fast_pow.L_2TAG_PACKET_7_0_2_1 cpu s)))))), [], ?_, ?_, Or.inl rfl, ?_⟩
    · set_option maxRecDepth 8000 in
      simp only [
          ↓reduceIte, ↓fast_pow.pow_L_2TAG_PACKET_7_0_2_6_sem,
          ↓fast_pow.pow_L_2TAG_PACKET_7_0_2_5_sem,
          ↓fast_pow.pow_L_2TAG_PACKET_7_0_2_4_sem,
          ↓fast_pow.pow_L_2TAG_PACKET_7_0_2_3_sem,
          ↓fast_pow.pow_L_2TAG_PACKET_7_0_2_2_sem,
          ↓fast_pow.pow_L_2TAG_PACKET_7_0_2_1_sem, ↓Machine.get_setx, ↓Machine.get_setg,
          ↓Machine.get_setstk, ↓Machine.get_enter, ↓Machine.get_setFlags,
          ↓Machine.trace_set, ↓Machine.get_ite, ↓Machine.trace_ite, ↓Machine.obs_eq_get,
          ↓Machine.flags_get, ↓Machine.flags_trace, ↓sem_get_1, ↓sem_get_2, ↓sem_get_3,
          ↓sem_get_4, ↓sem_trace_1, ↓sem_trace_2, ↓sem_trace_3, ↓sem_trace_4,
          ↓load_const, cc_iff, ea, and_imm, and_imm_left, ilog2_lit, or_eq_zero,
          or_mod32, or_lt_2p31, Nat.mod_mod, Nat.zero_or, Nat.or_zero, Nat.sub_zero,
          Nat.add_mod_right, lane_eq, Machine.io_eq_get, Nat.xor_self, Loc.x.injEq,
          Loc.g.injEq, Loc.m.injEq, Bool.toNat_eq_zero, Bool.toNat_eq_one,
          Nat.reducePow, Nat.reduceMul, Nat.reduceMod, Nat.reduceAdd, Nat.reduceSub,
          Nat.reduceDiv, Nat.reduceEqDiff, Nat.reduceLTLE, Nat.reduceLeDiff,
          Nat.reduceLT, Nat.reduceGT, Nat.reduceOr, Nat.reduceXor, reduceCtorEq,
          Bool.not_eq_true', Bool.not_eq_true, decide_eq_true_eq,
          decide_eq_false_iff_not, Bool.and_eq_true, Bool.or_eq_true, bne_iff_ne,
          beq_iff_eq, ne_eq, Bool.not_eq_false', Bool.not_eq_false, decide_not, not_not,
          Bool.decide_eq_true, Bool.false_eq_true, Bool.true_eq_false,
          not_false_eq_true, not_true_eq_false, and_true, true_and, and_false,
          false_and, or_true, true_or, or_false, false_or, not_true, not_false_iff,
          iff_self, true_iff, iff_true, false_iff, iff_false, ite_self,
          decide_eq_decide, decide_False, decide_True, Bool.not_true, Bool.not_false]
    · set_option maxRecDepth 8000 in
      simp only [
          ↓reduceIte, ↓fast_pow.pow_L_2TAG_PACKET_7_0_2_6_sem,
          ↓fast_pow.pow_L_2TAG_PACKET_7_0_2_5_sem,
          ↓fast_pow.pow_L_2TAG_PACKET_7_0_2_4_sem,
          ↓fast_pow.pow_L_2TAG_PACKET_7_0_2_3_sem,
          ↓fast_pow.pow_L_2TAG_PACKET_7_0_2_2_sem,
          ↓fast_pow.pow_L_2TAG_PACKET_7_0_2_1_sem, ↓Machine.get_setx, ↓Machine.get_setg,
          ↓Machine.get_setstk, ↓Machine.get_enter, ↓Machine.get_setFlags,
          ↓Machine.trace_set, ↓Machine.get_ite, ↓Machine.trace_ite, ↓Machine.obs_eq_get,
          ↓Machine.flags_get, ↓Machine.flags_trace, ↓sem_get_1, ↓sem_get_2, ↓sem_get_3,
          ↓sem_get_4, ↓sem_trace_1, ↓sem_trace_2, ↓sem_trace_3, ↓sem_trace_4,
          ↓load_const, cc_iff, ea, and_imm, and_imm_left, ilog2_lit, or_eq_zero,
          or_mod32, or_lt_2p31, Nat.mod_mod, Nat.zero_or, Nat.or_zero, Nat.sub_zero,
          Nat.add_mod_right, lane_eq, Machine.io_eq_get, Nat.xor_self, Loc.x.injEq,
          Loc.g.injEq, Loc.m.injEq, Bool.toNat_eq_zero, Bool.toNat_eq_one,
          Nat.reducePow, Nat.reduceMul, Nat.reduceMod, Nat.reduceAdd, Nat.reduceSub,
          Nat.reduceDiv, Nat.reduceEqDiff, Nat.reduceLTLE, Nat.reduceLeDiff,
          Nat.reduceLT, Nat.reduceGT, Nat.reduceOr, Nat.reduceXor, reduceCtorEq,
          Bool.not_eq_true', Bool.not_eq_true, decide_eq_true_eq,
          decide_eq_false_iff_not, Bool.and_eq_true, Bool.or_eq_true, bne_iff_ne,
          beq_iff_eq, ne_eq, Bool.not_eq_false', Bool.not_eq_false, decide_not, not_not,
          Bool.decide_eq_true, Bool.false_eq_true, Bool.true_eq_false,
          not_false_eq_true, not_true_eq_false, and_true, true_and, and_false,
          false_and, or_true, true_or, or_false, false_or, not_true, not_false_iff,
          iff_self, true_iff, iff_true, false_iff, iff_false, ite_self,
          decide_eq_decide, decide_False, decide_True, Bool.not_true, Bool.not_false]
      rfl
    · exact Or.inl ⟨hi.1, rfl⟩
  rw [if_neg (c6.not.2 (by omega))]
  obtain ⟨pt1, pt2, -⟩ := parity_trick y (by omega) (by omega)
  have im := int_mid y (by omega) (by omega)
  simp only [Nat.reducePow] at pt1
  by_cases hz : f64Add y (f64Sub 0x4338000000000000 (f64Add 0x4338000000000000 y))
      / 281474976710656 % 32768 = 0
  · rw [if_neg (c7.not.2 (not_not.2 hz))]
    have hsig := pt1.1 hz
    have hpar := pt2 hsig
    by_cases hp : f64Add 0x4338000000000000 y % 2 = 0
    · rw [if_pos (c8.2 hp)]
      have ho : f64IsOddInteger y = false := by
        rw [← Bool.not_eq_true, im.2]
        omega
      refine ⟨(fast_pow.L_2TAG_PACKET_7_0_2_8 cpu (fast_pow.L_2TAG_PACKET_7_0_2_7 cpu (fast_pow.L_2TAG_PACKET_7_0_2_6 cpu (fast_pow.L_2TAG_PACKET_7_0_2_5 cpu (fast_pow.L_2TAG_PACKET_7_0_2_4 cpu (fast_pow.L_2TAG_PACKET_7_0_2_3 cpu (fast_pow.L_2TAG_PACKET_7_0_2_2 cpu (fast_pow.L_2TAG_PACKET_7_0_2_1 cpu s)))))))), [], ?_, ?_, Or.inl rfl, ?_⟩
      · set_option maxRecDepth 8000 in
        simp only [
            ↓reduceIte, ↓fast_pow.pow_L_2TAG_PACKET_7_0_2_8_sem,
            ↓fast_pow.pow_L_2TAG_PACKET_7_0_2_7_sem,
            ↓fast_pow.pow_L_2TAG_PACKET_7_0_2_6_sem,
            ↓fast_pow.pow_L_2TAG_PACKET_7_0_2_5_sem,
            ↓fast_pow.pow_L_2TAG_PACKET_7_0_2_4_sem,
            ↓fast_pow.pow_L_2TAG_PACKET_7_0_2_3_sem,
            ↓fast_pow.pow_L_2TAG_PACKET_7_0_2_2_sem,
            ↓fast_pow.pow_L_2TAG_PACKET_7_0_2_1_sem, ↓Machine.get_setx,
            ↓Machine.get_setg, ↓Machine.get_setstk, ↓Machine.get_enter,
            ↓Machine.get_setFlags, ↓Machine.trace_set, ↓Machine.get_ite,
            ↓Machine.trace_ite, ↓Machine.obs_eq_get, ↓Machine.flags_get,
            ↓Machine.flags_trace, ↓sem_get_1, ↓sem_get_2, ↓sem_get_3, ↓sem_get_4,
            ↓sem_trace_1, ↓sem_trace_2, ↓sem_trace_3, ↓sem_trace_4, ↓load_const,
            cc_iff, ea, and_imm, and_imm_left, ilog2_lit, or_eq_zero, or_mod32,
            or_lt_2p31, Nat.mod_mod, Nat.zero_or, Nat.or_zero, Nat.sub_zero,
            Nat.add_mod_right, lane_eq, Machine.io_eq_get, Nat.xor_self, Loc.x.injEq,
            Loc.g.injEq, Loc.m.injEq, Bool.toNat_eq_zero, Bool.toNat_eq_one,
            Nat.reducePow, Nat.reduceMul, Nat.reduceMod, Nat.reduceAdd, Nat.reduceSub,
            Nat.reduceDiv, Nat.reduceEqDiff, Nat.reduceLTLE, Nat.reduceLeDiff,
            Nat.reduceLT, Nat.reduceGT, Nat.reduceOr, Nat.reduceXor, reduceCtorEq,
            Bool.not_eq_true', Bool.not_eq_true, decide_eq_true_eq,
            decide_eq_false_iff_not, Bool.and_eq_true, Bool.or_eq_true, bne_iff_ne,
            beq_iff_eq, ne_eq, Bool.not_eq_false', Bool.not_eq_false, decide_not,
            not_not, Bool.decide_eq_true, Bool.false_eq_true, Bool.true_eq_false,
            not_false_eq_true, not_true_eq_false, and_true, true_and, and_false,
            false_and, or_true, true_or, or_false, false_or, not_true, not_false_iff,
            iff_self, true_iff, iff_true, false_iff, iff_false, ite_self,
            decide_eq_decide, decide_False, decide_True, Bool.not_true, Bool.not_false]
      · set_option maxRecDepth 8000 in
        simp only [
            ↓reduceIte, ↓fast_pow.pow_L_2TAG_PACKET_7_0_2_8_sem,
            ↓fast_pow.pow_L_2TAG_PACKET_7_0_2_7_sem,
            ↓fast_pow.pow_L_2TAG_PACKET_7_0_2_6_sem,
            ↓fast_pow.pow_L_2TAG_PACKET_7_0_2_5_sem,
            ↓fast_pow.pow_L_2TAG_PACKET_7_0_2_4_sem,
            ↓fast_pow.pow_L_2TAG_PACKET_7_0_2_3_sem,
            ↓fast_pow.pow_L_2TAG_PACKET_7_0_2_2_sem,
            ↓fast_pow.pow_L_2TAG_PACKET_7_0_2_1_sem, ↓Machine.get_setx,
            ↓Machine.get_setg, ↓Machine.get_setstk, ↓Machine.get_enter,
            ↓Machine.get_setFlags, ↓Machine.trace_set, ↓Machine.get_ite,
            ↓Machine.trace_ite, ↓Machine.obs_eq_get, ↓Machine.flags_get,
            ↓Machine.flags_trace, ↓sem_get_1, ↓sem_get_2, ↓sem_get_3, ↓sem_get_4,
            ↓sem_trace_1, ↓sem_trace_2, ↓sem_trace_3, ↓sem_trace_4, ↓load_const,
            cc_iff, ea, and_imm, and_imm_left, ilog2_lit, or_eq_zero, or_mod32,
            or_lt_2p31, Nat.mod_mod, Nat.zero_or, Nat.or_zero, Nat.sub_zero,
            Nat.add_mod_right, lane_eq, Machine.io_eq_get, Nat.xor_self, Loc.x.injEq,
            Loc.g.injEq, Loc.m.injEq, Bool.toNat_eq_zero, Bool.toNat_eq_one,
            Nat.reducePow, Nat.reduceMul, Nat.reduceMod, Nat.reduceAdd, Nat.reduceSub,
            Nat.reduceDiv, Nat.reduceEqDiff, Nat.reduceLTLE, Nat.reduceLeDiff,
            Nat.reduceLT, Nat.reduceGT, Nat.reduceOr, Nat.reduceXor, reduceCtorEq,
            Bool.not_eq_true', Bool.not_eq_true, decide_eq_true_eq,
            decide_eq_false_iff_not, Bool.and_eq_true, Bool.or_eq_true, bne_iff_ne,
            beq_iff_eq, ne_eq, Bool.not_eq_false', Bool.not_eq_false, decide_not,
            not_not, Bool.decide_eq_true, Bool.false_eq_true, Bool.true_eq_false,
            not_false_eq_true, not_true_eq_false, and_true, true_and, and_false,
            false_and, or_true, true_or, or_false, false_or, not_true, not_false_iff,
            iff_self, true_iff, iff_true, false_iff, iff_false, ite_self,
            decide_eq_decide, decide_False, decide_True, Bool.not_true, Bool.not_false]
        rfl
      · exact Or.inr (Or.inr ⟨im.1.2 hsig, ho, rfl⟩)
    · rw [if_neg (c8.not.2 hp)]
      refine ⟨(fast_pow.L_2TAG_PACKET_7_0_2_9 cpu (fast_pow.L_2TAG_PACKET_7_0_2_8 cpu (fast_pow.L_2TAG_PACKET_7_0_2_7 cpu (fast_pow.L_2TAG_PACKET_7_0_2_6 cpu (fast_pow.L_2TAG_PACKET_7_0_2_5 cpu (fast_pow.L_2TAG_PACKET_7_0_2_4 cpu (fast_pow.L_2TAG_PACKET_7_0_2_3 cpu (fast_pow.L_2TAG_PACKET_7_0_2_2 cpu (fast_pow.L_2TAG_PACKET_7_0_2_1 cpu s))))))))), [], ?_, ?_, Or.inl rfl, ?_⟩
      · set_option maxRecDepth 8000 in
        simp only [
            ↓reduceIte, ↓fast_pow.pow_L_2TAG_PACKET_7_0_2_9_sem,
            ↓fast_pow.pow_L_2TAG_PACKET_7_0_2_8_sem,
            ↓fast_pow.pow_L_2TAG_PACKET_7_0_2_7_sem,
            ↓fast_pow.pow_L_2TAG_PACKET_7_0_2_6_sem,
            ↓fast_pow.pow_L_2TAG_PACKET_7_0_2_5_sem,
            ↓fast_pow.pow_L_2TAG_PACKET_7_0_2_4_sem,
            ↓fast_pow.pow_L_2TAG_PACKET_7_0_2_3_sem,
            ↓fast_pow.pow_L_2TAG_PACKET_7_0_2_2_sem,
            ↓fast_pow.pow_L_2TAG_PACKET_7_0_2_1_sem, ↓Machine.get_setx,
            ↓Machine.get_setg, ↓Machine.get_setstk, ↓Machine.get_enter,
            ↓Machine.get_setFlags, ↓Machine.trace_set, ↓Machine.get_ite,
            ↓Machine.trace_ite, ↓Machine.obs_eq_get, ↓Machine.flags_get,
            ↓Machine.flags_trace, ↓sem_get_1, ↓sem_get_2, ↓sem_get_3, ↓sem_get_4,
            ↓sem_trace_1, ↓sem_trace_2, ↓sem_trace_3, ↓sem_trace_4, ↓load_const,
            cc_iff, ea, and_imm, and_imm_left, ilog2_lit, or_eq_zero, or_mod32,
            or_lt_2p31, Nat.mod_mod, Nat.zero_or, Nat.or_zero, Nat.sub_zero,
            Nat.add_mod_right, lane_eq, Machine.io_eq_get, Nat.xor_self, Loc.x.injEq,
            Loc.g.injEq, Loc.m.injEq, Bool.toNat_eq_zero, Bool.toNat_eq_one,
            Nat.reducePow, Nat.reduceMul, Nat.reduceMod, Nat.reduceAdd, Nat.reduceSub,
            Nat.reduceDiv, Nat.reduceEqDiff, Nat.reduceLTLE, Nat.reduceLeDiff,
            Nat.reduceLT, Nat.reduceGT, Nat.reduceOr, Nat.reduceXor, reduceCtorEq,
            Bool.not_eq_true', Bool.not_eq_true, decide_eq_true_eq,
            decide_eq_false_iff_not, Bool.and_eq_true, Bool.or_eq_true, bne_iff_ne,
            beq_iff_eq, ne_eq, Bool.not_eq_false', Bool.not_eq_false, decide_not,
            not_not, Bool.decide_eq_true, Bool.false_eq_true, Bool.true_eq_false,
            not_false_eq_true, not_true_eq_false, and_true, true_and, and_false,
            false_and, or_true, true_or, or_false, false_or, not_true, not_false_iff,
            iff_self, true_iff, iff_true, false_iff, iff_false, ite_self,
            decide_eq_decide, decide_False, decide_True, Bool.not_true, Bool.not_false]
      · set_option maxRecDepth 8000 in
        simp only [
            ↓reduceIte, ↓fast_pow.pow_L_2TAG_PACKET_7_0_2_9_sem,
            ↓fast_pow.pow_L_2TAG_PACKET_7_0_2_8_sem,
            ↓fast_pow.pow_L_2TAG_PACKET_7_0_2_7_sem,
            ↓fast_pow.pow_L_2TAG_PACKET_7_0_2_6_sem,
            ↓fast_pow.pow_L_2TAG_PACKET_7_0_2_5_sem,
            ↓fast_pow.pow_L_2TAG_PACKET_7_0_2_4_sem,
            ↓fast_pow.pow_L_2TAG_PACKET_7_0_2_3_sem,
            ↓fast_pow.pow_L_2TAG_PACKET_7_0_2_2_sem,
            ↓fast_pow.pow_L_2TAG_PACKET_7_0_2_1_sem, ↓Machine.get_setx,
            ↓Machine.get_setg, ↓Machine.get_setstk, ↓Machine.get_enter,
            ↓Machine.get_setFlags, ↓Machine.trace_set, ↓Machine.get_ite,
            ↓Machine.trace_ite, ↓Machine.obs_eq_get, ↓Machine.flags_get,
            ↓Machine.flags_trace, ↓sem_get_1, ↓sem_get_2, ↓sem_get_3, ↓sem_get_4,
            ↓sem_trace_1, ↓sem_trace_2, ↓sem_trace_3, ↓sem_trace_4, ↓load_const,
            cc_iff, ea, and_imm, and_imm_left, ilog2_lit, or_eq_zero, or_mod32,
            or_lt_2p31, Nat.mod_mod, Nat.zero_or, Nat.or_zero, Nat.sub_zero,
            Nat.add_mod_right, lane_eq, Machine.io_eq_get, Nat.xor_self, Loc.x.injEq,
            Loc.g.injEq, Loc.m.injEq, Bool.toNat_eq_zero, Bool.toNat_eq_one,
            Nat.reducePow, Nat.reduceMul, Nat.reduceMod, Nat.reduceAdd, Nat.reduceSub,
            Nat.reduceDiv, Nat.reduceEqDiff, Nat.reduceLTLE, Nat.reduceLeDiff,
            Nat.reduceLT, Nat.reduceGT, Nat.reduceOr, Nat.reduceXor, reduceCtorEq,
            Bool.not_eq_true', Bool.not_eq_true, decide_eq_true_eq,
            decide_eq_false_iff_not, Bool.and_eq_true, Bool.or_eq_true, bne_iff_ne,
            beq_iff_eq, ne_eq, Bool.not_eq_false', Bool.not_eq_false, decide_not,
            not_not, Bool.decide_eq_true, Bool.false_eq_true, Bool.true_eq_false,
            not_false_eq_true, not_true_eq_false, and_true, true_and, and_false,
            false_and, or_true, true_or, or_false, false_or, not_true, not_false_iff,
            iff_self, true_iff, iff_true, false_iff, iff_false, ite_self,
            decide_eq_decide, decide_False, decide_True, Bool.not_true, Bool.not_false]
        rfl
      · exact Or.inr (Or.inl ⟨im.2.2 ⟨hsig, by omega⟩, rfl⟩)
  · rw [if_pos (c7.2 hz)]
    have hn : f64IsInteger y = false := by
      rw [← Bool.not_eq_true, im.1]
      exact fun h => hz (pt1.2 h)
    refine ⟨(fast_pow.L_2TAG_PACKET_7_0_2_7 cpu (fast_pow.L_2TAG_PACKET_7_0_2_6 cpu (fast_pow.L_2TAG_PACKET_7_0_2_5 cpu (fast_pow.L_2TAG_PACKET_7_0_2_4 cpu (fast_pow.L_2TAG_PACKET_7_0_2_3 cpu (fast_pow.L_2TAG_PACKET_7_0_2_2 cpu (fast_pow.L_2TAG_PACKET_7_0_2_1 cpu s))))))), [], ?_, ?_, Or.inl rfl, ?_⟩
    · set_option maxRecDepth 8000 in
      simp only [
          ↓reduceIte, ↓fast_pow.pow_L_2TAG_PACKET_7_0_2_7_sem,
          ↓fast_pow.pow_L_2TAG_PACKET_7_0_2_6_sem,
          ↓fast_pow.pow_L_2TAG_PACKET_7_0_2_5_sem,
          ↓fast_pow.pow_L_2TAG_PACKET_7_0_2_4_sem,
          ↓fast_pow.pow_L_2TAG_PACKET_7_0_2_3_sem,
          ↓fast_pow.pow_L_2TAG_PACKET_7_0_2_2_sem,
          ↓fast_pow.pow_L_2TAG_PACKET_7_0_2_1_sem, ↓Machine.get_setx, ↓Machine.get_setg,
          ↓Machine.get_setstk, ↓Machine.get_enter, ↓Machine.get_setFlags,
          ↓Machine.trace_set, ↓Machine.get_ite, ↓Machine.trace_ite, ↓Machine.obs_eq_get,
          ↓Machine.flags_get, ↓Machine.flags_trace, ↓sem_get_1, ↓sem_get_2, ↓sem_get_3,
          ↓sem_get_4, ↓sem_trace_1, ↓sem_trace_2, ↓sem_trace_3, ↓sem_trace_4,
          ↓load_const, cc_iff, ea, and_imm, and_imm_left, ilog2_lit, or_eq_zero,
          or_mod32, or_lt_2p31, Nat.mod_mod, Nat.zero_or, Nat.or_zero, Nat.sub_zero,
          Nat.add_mod_right, lane_eq, Machine.io_eq_get, Nat.xor_self, Loc.x.injEq,
          Loc.g.injEq, Loc.m.injEq, Bool.toNat_eq_zero, Bool.toNat_eq_one,
          Nat.reducePow, Nat.reduceMul, Nat.reduceMod, Nat.reduceAdd, Nat.reduceSub,
          Nat.reduceDiv, Nat.reduceEqDiff, Nat.reduceLTLE, Nat.reduceLeDiff,
          Nat.reduceLT, Nat.reduceGT, Nat.reduceOr, Nat.reduceXor, reduceCtorEq,
          Bool.not_eq_true', Bool.not_eq_true, decide_eq_true_eq,
          decide_eq_false_iff_not, Bool.and_eq_true, Bool.or_eq_true, bne_iff_ne,
          beq_iff_eq, ne_eq, Bool.not_eq_false', Bool.not_eq_false, decide_not, not_not,
          Bool.decide_eq_true, Bool.false_eq_true, Bool.true_eq_false,
          not_false_eq_true, not_true_eq_false, and_true, true_and, and_false,
          false_and, or_true, true_or, or_false, false_or, not_true, not_false_iff,
          iff_self, true_iff, iff_true, false_iff, iff_false, ite_self,
          decide_eq_decide, decide_False, decide_True, Bool.not_true, Bool.not_false]
    · set_option maxRecDepth 8000 in
      simp only [
          ↓reduceIte, ↓fast_pow.pow_L_2TAG_PACKET_7_0_2_7_sem,
          ↓fast_pow.pow_L_2TAG_PACKET_7_0_2_6_sem,
          ↓fast_pow.pow_L_2TAG_PACKET_7_0_2_5_sem,
          ↓fast_pow.pow_L_2TAG_PACKET_7_0_2_4_sem,
          ↓fast_pow.pow_L_2TAG_PACKET_7_0_2_3_sem,
          ↓fast_pow.pow_L_2TAG_PACKET_7_0_2_2_sem,
          ↓fast_pow.pow_L_2TAG_PACKET_7_0_2_1_sem, ↓Machine.get_setx, ↓Machine.get_setg,
          ↓Machine.get_setstk, ↓Machine.get_enter, ↓Machine.get_setFlags,
          ↓Machine.trace_set, ↓Machine.get_ite, ↓Machine.trace_ite, ↓Machine.obs_eq_get,
          ↓Machine.flags_get, ↓Machine.flags_trace, ↓sem_get_1, ↓sem_get_2, ↓sem_get_3,
          ↓sem_get_4, ↓sem_trace_1, ↓sem_trace_2, ↓sem_trace_3, ↓sem_trace_4,
          ↓load_const, cc_iff, ea, and_imm, and_imm_left, ilog2_lit, or_eq_zero,
          or_mod32, or_lt_2p31, Nat.mod_mod, Nat.zero_or, Nat.or_zero, Nat.sub_zero,
          Nat.add_mod_right, lane_eq, Machine.io_eq_get, Nat.xor_self, Loc.x.injEq,
          Loc.g.injEq, Loc.m.injEq, Bool.toNat_eq_zero, Bool.toNat_eq_one,
          Nat.reducePow, Nat.reduceMul, Nat.reduceMod, Nat.reduceAdd, Nat.reduceSub,
          Nat.reduceDiv, Nat.reduceEqDiff, Nat.reduceLTLE, Nat.reduceLeDiff,
          Nat.reduceLT, Nat.reduceGT, Nat.reduceOr, Nat.reduceXor, reduceCtorEq,
          Bool.not_eq_true', Bool.not_eq_true, decide_eq_true_eq,
          decide_eq_false_iff_not, Bool.and_eq_true, Bool.or_eq_true, bne_iff_ne,
          beq_iff_eq, ne_eq, Bool.not_eq_false', Bool.not_eq_false, decide_not, not_not,
          Bool.decide_eq_true, Bool.false_eq_true, Bool.true_eq_false,
          not_false_eq_true, not_true_eq_false, and_true, true_and, and_false,
          false_and, or_true, true_or, or_false, false_or, not_true, not_false_iff,
          iff_self, true_iff, iff_true, false_iff, iff_false, ite_self,
          decide_eq_decide, decide_False, decide_True, Bool.not_true, Bool.not_false]
      rfl
    · exact Or.inl ⟨hn, rfl⟩

end MacroAssembler

namespace MacroAssembler
open XReg GReg Machine

/-! ### The run of `fast_pow` for a negative finite base -/

/-- For a negative finite base other than `-0`, `fast_pow` stores both arguments and reaches
`L_2TAG_PACKET_7_0_2` through `L_2TAG_PACKET_0_0_2`. -/
theorem pow_neg_to_L7 (cpu : Cpu) (s : Machine)
    (h1 : 0x8000000000000000 < s.arg0) (h2 : s.arg0 < 0xFFF0000000000000) :
    ∃ t, fast_pow cpu s = fast_pow.L_2TAG_PACKET_7_0_2 cpu t ∧
      t.get (.m 8) = s.arg0 ∧ t.get (.m 16) = s.arg1 ∧
      t.trace = Label.L_2TAG_PACKET_0_0_2 :: Label.B1_2 :: Label.start :: Label.entry ::
        s.trace := by
  simp only [Machine.io_eq_get, Nat.reducePow] at h1 h2 ⊢
  refine ⟨(fast_pow.L_2TAG_PACKET_0_0_2_2 cpu (fast_pow.L_2TAG_PACKET_0_0_2_1 cpu (fast_pow.B1_2_1 cpu (fast_pow.start_1 cpu (fast_pow.entry_1 cpu s))))), ?_, ?_, ?_, ?_⟩
  rotate_left
  · set_option maxRecDepth 8000 in
    simp only [
        ↓reduceIte, ↓fast_pow.pow_L_2TAG_PACKET_0_0_2_2_sem,
        ↓fast_pow.pow_L_2TAG_PACKET_0_0_2_1_sem, ↓fast_pow.pow_B1_2_1_sem,
        ↓fast_pow.pow_start_1_sem, ↓fast_pow.pow_entry_1_sem, ↓Machine.get_setx,
        ↓Machine.get_setg, ↓Machine.get_setstk, ↓Machine.get_enter, ↓Machine.get_setFlags,
        ↓Machine.trace_set, ↓Machine.get_ite, ↓Machine.trace_ite, ↓Machine.obs_eq_get,
        ↓Machine.flags_get, ↓Machine.flags_trace, ↓sem_get_1, ↓sem_get_2, ↓sem_get_3,
        ↓sem_get_4, ↓sem_trace_1, ↓sem_trace_2, ↓sem_trace_3, ↓sem_trace_4, ↓load_const,
        cc_iff, ea, and_imm, and_imm_left, ilog2_lit, or_eq_zero, or_mod32, or_lt_2p31,
        Nat.mod_mod, Nat.zero_or, Nat.or_zero, Nat.sub_zero, Nat.add_mod_right, lane_eq,
        Machine.io_eq_get, Nat.xor_self, Loc.x.injEq, Loc.g.injEq, Loc.m.injEq,
        Bool.toNat_eq_zero, Bool.toNat_eq_one, Nat.reducePow, Nat.reduceMul,
        Nat.reduceMod, Nat.reduceAdd, Nat.reduceSub, Nat.reduceDiv, Nat.reduceEqDiff,
        Nat.reduceLTLE, Nat.reduceLeDiff, Nat.reduceLT, Nat.reduceGT, Nat.reduceOr,
        Nat.reduceXor, reduceCtorEq, Bool.not_eq_true', Bool.not_eq_true,
        decide_eq_true_eq, decide_eq_false_iff_not, Bool.and_eq_true, Bool.or_eq_true,
        bne_iff_ne, beq_iff_eq, ne_eq, Bool.not_eq_false', Bool.not_eq_false, decide_not,
        not_not, Bool.decide_eq_true, Bool.false_eq_true, Bool.true_eq_false,
        not_false_eq_true, not_true_eq_false, and_true, true_and, and_false, false_and,
        or_true, true_or, or_false, false_or, not_true, not_false_iff, iff_self, true_iff,
        iff_true, false_iff, iff_false, ite_self, decide_eq_decide, decide_False,
        decide_True, Bool.not_true, Bool.not_false]
  · set_option maxRecDepth 8000 in
    simp only [
        ↓reduceIte, ↓fast_pow.pow_L_2TAG_PACKET_0_0_2_2_sem,
        ↓fast_pow.pow_L_2TAG_PACKET_0_0_2_1_sem, ↓fast_pow.pow_B1_2_1_sem,
        ↓fast_pow.pow_start_1_sem, ↓fast_pow.pow_entry_1_sem, ↓Machine.get_setx,
        ↓Machine.get_setg, ↓Machine.get_setstk, ↓Machine.get_enter, ↓Machine.get_setFlags,
        ↓Machine.trace_set, ↓Machine.get_ite, ↓Machine.trace_ite, ↓Machine.obs_eq_get,
        ↓Machine.flags_get, ↓Machine.flags_trace, ↓sem_get_1, ↓sem_get_2, ↓sem_get_3,
        ↓sem_get_4, ↓sem_trace_1, ↓sem_trace_2, ↓sem_trace_3, ↓sem_trace_4, ↓load_const,
        cc_iff, ea, and_imm, and_imm_left, ilog2_lit, or_eq_zero, or_mod32, or_lt_2p31,
        Nat.mod_mod, Nat.zero_or, Nat.or_zero, Nat.sub_zero, Nat.add_mod_right, lane_eq,
        Machine.io_eq_get, Nat.xor_self, Loc.x.injEq, Loc.g.injEq, Loc.m.injEq,
        Bool.toNat_eq_zero, Bool.toNat_eq_one, Nat.reducePow, Nat.reduceMul,
        Nat.reduceMod, Nat.reduceAdd, Nat.reduceSub, Nat.reduceDiv, Nat.reduceEqDiff,
        Nat.reduceLTLE, Nat.reduceLeDiff, Nat.reduceLT, Nat.reduceGT, Nat.reduceOr,
        Nat.reduceXor, reduceCtorEq, Bool.not_eq_true', Bool.not_eq_true,
        decide_eq_true_eq, decide_eq_false_iff_not, Bool.and_eq_true, Bool.or_eq_true,
        bne_iff_ne, beq_iff_eq, ne_eq, Bool.not_eq_false', Bool.not_eq_false, decide_not,
        not_not, Bool.decide_eq_true, Bool.false_eq_true, Bool.true_eq_false,
        not_false_eq_true, not_true_eq_false, and_true, true_and, and_false, false_and,
        or_true, true_or, or_false, false_or, not_true, not_false_iff, iff_self, true_iff,
        iff_true, false_iff, iff_false, ite_self, decide_eq_decide, decide_False,
        decide_True, Bool.not_true, Bool.not_false]
  · simp only [fast_pow.pow_L_2TAG_PACKET_0_0_2_2_trace, fast_pow.pow_L_2TAG_PACKET_0_0_2_1_trace,
      fast_pow.pow_B1_2_1_trace, fast_pow.pow_start_1_trace, fast_pow.pow_entry_1_trace]
  rw [
      fast_pow, fast_pow.pow_entry_eq, fast_pow.pow_start_eq, fast_pow.pow_B1_2_eq, if_pos,
      fast_pow.pow_L_2TAG_PACKET_0_0_2_eq, if_neg, if_pos]
  · set_option maxRecDepth 8000 in
    simp only [
        ↓reduceIte, ↓fast_pow.pow_L_2TAG_PACKET_0_0_2_2_sem,
        ↓fast_pow.pow_L_2TAG_PACKET_0_0_2_1_sem, ↓fast_pow.pow_B1_2_1_sem,
        ↓fast_pow.pow_start_1_sem, ↓fast_pow.pow_entry_1_sem, ↓Machine.get_setx,
        ↓Machine.get_setg, ↓Machine.get_setstk, ↓Machine.get_enter, ↓Machine.get_setFlags,
        ↓Machine.trace_set, ↓Machine.get_ite, ↓Machine.trace_ite, ↓Machine.obs_eq_get,
        ↓Machine.flags_get, ↓Machine.flags_trace, ↓sem_get_1, ↓sem_get_2, ↓sem_get_3,
        ↓sem_get_4, ↓sem_trace_1, ↓sem_trace_2, ↓sem_trace_3, ↓sem_trace_4, ↓load_const,
        cc_iff, ea, and_imm, and_imm_left, ilog2_lit, or_eq_zero, or_mod32, or_lt_2p31,
        Nat.mod_mod, Nat.zero_or, Nat.or_zero, Nat.sub_zero, Nat.add_mod_right, lane_eq,
        Machine.io_eq_get, Nat.xor_self, Loc.x.injEq, Loc.g.injEq, Loc.m.injEq,
        Bool.toNat_eq_zero, Bool.toNat_eq_one, Nat.reducePow, Nat.reduceMul,
        Nat.reduceMod, Nat.reduceAdd, Nat.reduceSub, Nat.reduceDiv, Nat.reduceEqDiff,
        Nat.reduceLTLE, Nat.reduceLeDiff, Nat.reduceLT, Nat.reduceGT, Nat.reduceOr,
        Nat.reduceXor, reduceCtorEq, Bool.not_eq_true', Bool.not_eq_true,
        decide_eq_true_eq, decide_eq_false_iff_not, Bool.and_eq_true, Bool.or_eq_true,
        bne_iff_ne, beq_iff_eq, ne_eq, Bool.not_eq_false', Bool.not_eq_false, decide_not,
        not_not, Bool.decide_eq_true, Bool.false_eq_true, Bool.true_eq_false,
        not_false_eq_true, not_true_eq_false, and_true, true_and, and_false, false_and,
        or_true, true_or, or_false, false_or, not_true, not_false_iff, iff_self, true_iff,
        iff_true, false_iff, iff_false, ite_self, decide_eq_decide, decide_False,
        decide_True, Bool.not_true, Bool.not_false]
    all_goals omega
  · set_option maxRecDepth 8000 in
    simp only [
        ↓reduceIte, ↓fast_pow.pow_L_2TAG_PACKET_0_0_2_1_sem, ↓fast_pow.pow_B1_2_1_sem,
        ↓fast_pow.pow_start_1_sem, ↓fast_pow.pow_entry_1_sem, ↓Machine.get_setx,
        ↓Machine.get_setg, ↓Machine.get_setstk, ↓Machine.get_enter, ↓Machine.get_setFlags,
        ↓Machine.trace_set, ↓Machine.get_ite, ↓Machine.trace_ite, ↓Machine.obs_eq_get,
        ↓Machine.flags_get, ↓Machine.flags_trace, ↓sem_get_1, ↓sem_get_2, ↓sem_get_3,
        ↓sem_get_4, ↓sem_trace_1, ↓sem_trace_2, ↓sem_trace_3, ↓sem_trace_4, ↓load_const,
        cc_iff, ea, and_imm, and_imm_left, ilog2_lit, or_eq_zero, or_mod32, or_lt_2p31,
        Nat.mod_mod, Nat.zero_or, Nat.or_zero, Nat.sub_zero, Nat.add_mod_right, lane_eq,
        Machine.io_eq_get, Nat.xor_self, Loc.x.injEq, Loc.g.injEq, Loc.m.injEq,
        Bool.toNat_eq_zero, Bool.toNat_eq_one, Nat.reducePow, Nat.reduceMul,
        Nat.reduceMod, Nat.reduceAdd, Nat.reduceSub, Nat.reduceDiv, Nat.reduceEqDiff,
        Nat.reduceLTLE, Nat.reduceLeDiff, Nat.reduceLT, Nat.reduceGT, Nat.reduceOr,
        Nat.reduceXor, reduceCtorEq, Bool.not_eq_true', Bool.not_eq_true,
        decide_eq_true_eq, decide_eq_false_iff_not, Bool.and_eq_true, Bool.or_eq_true,
        bne_iff_ne, beq_iff_eq, ne_eq, Bool.not_eq_false', Bool.not_eq_false, decide_not,
        not_not, Bool.decide_eq_true, Bool.false_eq_true, Bool.true_eq_false,
        not_false_eq_true, not_true_eq_false, and_true, true_and, and_false, false_and,
        or_true, true_or, or_false, false_or, not_true, not_false_iff, iff_self, true_iff,
        iff_true, false_iff, iff_false, ite_self, decide_eq_decide, decide_False,
        decide_True, Bool.not_true, Bool.not_false]
    all_goals omega
  · set_option maxRecDepth 8000 in
    simp only [
        ↓reduceIte, ↓fast_pow.pow_B1_2_1_sem, ↓fast_pow.pow_start_1_sem,
        ↓fast_pow.pow_entry_1_sem, ↓Machine.get_setx, ↓Machine.get_setg,
        ↓Machine.get_setstk, ↓Machine.get_enter, ↓Machine.get_setFlags,
        ↓Machine.trace_set, ↓Machine.get_ite, ↓Machine.trace_ite, ↓Machine.obs_eq_get,
        ↓Machine.flags_get, ↓Machine.flags_trace, ↓sem_get_1, ↓sem_get_2, ↓sem_get_3,
        ↓sem_get_4, ↓sem_trace_1, ↓sem_trace_2, ↓sem_trace_3, ↓sem_trace_4, ↓load_const,
        cc_iff, ea, and_imm, and_imm_left, ilog2_lit, or_eq_zero, or_mod32, or_lt_2p31,
        Nat.mod_mod, Nat.zero_or, Nat.or_zero, Nat.sub_zero, Nat.add_mod_right, lane_eq,
        Machine.io_eq_get, Nat.xor_self, Loc.x.injEq, Loc.g.injEq, Loc.m.injEq,
        Bool.toNat_eq_zero, Bool.toNat_eq_one, Nat.reducePow, Nat.reduceMul,
        Nat.reduceMod, Nat.reduceAdd, Nat.reduceSub, Nat.reduceDiv, Nat.reduceEqDiff,
        Nat.reduceLTLE, Nat.reduceLeDiff, Nat.reduceLT, Nat.reduceGT, Nat.reduceOr,
        Nat.reduceXor, reduceCtorEq, Bool.not_eq_true', Bool.not_eq_true,
        decide_eq_true_eq, decide_eq_false_iff_not, Bool.and_eq_true, Bool.or_eq_true,
        bne_iff_ne, beq_iff_eq, ne_eq, Bool.not_eq_false', Bool.not_eq_false, decide_not,
        not_not, Bool.decide_eq_true, Bool.false_eq_true, Bool.true_eq_false,
        not_false_eq_true, not_true_eq_false, and_true, true_and, and_false, false_and,
        or_true, true_or, or_false, false_or, not_true, not_false_iff, iff_self, true_iff,
        iff_true, false_iff, iff_false, ite_self, decide_eq_decide, decide_False,
        decide_True, Bool.not_true, Bool.not_false]
    all_goals omega

/-- The block `L_2TAG_PACKET_34_0_2` returns the default NaN (`0 * Inf`) and leaves through
`L_2TAG_PACKET_17_0_2`. -/
theorem pow_L34_run (cpu : Cpu) (s : Machine) :
    (fast_pow.L_2TAG_PACKET_34_0_2 cpu s).result = 0xFFF8000000000000 ∧
    (fast_pow.L_2TAG_PACKET_34_0_2 cpu s).trace =
      Label.B1_5 :: Label.L_2TAG_PACKET_56_0_2 :: Label.B1_3 :: Label.L_2TAG_PACKET_17_0_2 :: Label.L_2TAG_PACKET_34_0_2 ::
        s.trace := by
  rw [fast_pow.pow_L_2TAG_PACKET_34_0_2_eq, fast_pow.pow_L_2TAG_PACKET_17_0_2_eq,
    fast_pow.pow_B1_3_eq, fast_pow.pow_L_2TAG_PACKET_56_0_2_eq, fast_pow.pow_B1_5_eq]
  constructor
  · simp only [Machine.io_eq_get, Nat.reducePow]
    set_option maxRecDepth 8000 in
    simp only [
        ↓reduceIte, ↓fast_pow.pow_B1_5_1_sem, ↓fast_pow.pow_L_2TAG_PACKET_56_0_2_1_sem,
        ↓fast_pow.pow_B1_3_1_sem, ↓fast_pow.pow_L_2TAG_PACKET_17_0_2_1_sem,
        ↓fast_pow.pow_L_2TAG_PACKET_34_0_2_1_sem, f64Mul_zero_inf, ↓Machine.get_setx,
        ↓Machine.get_setg, ↓Machine.get_setstk, ↓Machine.get_enter, ↓Machine.get_setFlags,
        ↓Machine.trace_set, ↓Machine.get_ite, ↓Machine.trace_ite, ↓Machine.obs_eq_get,
        ↓Machine.flags_get, ↓Machine.flags_trace, ↓sem_get_1, ↓sem_get_2, ↓sem_get_3,
        ↓sem_get_4, ↓sem_trace_1, ↓sem_trace_2, ↓sem_trace_3, ↓sem_trace_4, ↓load_const,
        cc_iff, ea, and_imm, and_imm_left, ilog2_lit, or_eq_zero, or_mod32, or_lt_2p31,
        Nat.mod_mod, Nat.zero_or, Nat.or_zero, Nat.sub_zero, Nat.add_mod_right, lane_eq,
        Machine.io_eq_get, Nat.xor_self, Loc.x.injEq, Loc.g.injEq, Loc.m.injEq,
        Bool.toNat_eq_zero, Bool.toNat_eq_one, Nat.reducePow, Nat.reduceMul,
        Nat.reduceMod, Nat.reduceAdd, Nat.reduceSub, Nat.reduceDiv, Nat.reduceEqDiff,
        Nat.reduceLTLE, Nat.reduceLeDiff, Nat.reduceLT, Nat.reduceGT, Nat.reduceOr,
        Nat.reduceXor, reduceCtorEq, Bool.not_eq_true', Bool.not_eq_true,
        decide_eq_true_eq, decide_eq_false_iff_not, Bool.and_eq_true, Bool.or_eq_true,
        bne_iff_ne, beq_iff_eq, ne_eq, Bool.not_eq_false', Bool.not_eq_false, decide_not,
        not_not, Bool.decide_eq_true, Bool.false_eq_true, Bool.true_eq_false,
        not_false_eq_true, not_true_eq_false, and_true, true_and, and_false, false_and,
        or_true, true_or, or_false, false_or, not_true, not_false_iff, iff_self, true_iff,
        iff_true, false_iff, iff_false, ite_self, decide_eq_decide, decide_False,
        decide_True, Bool.not_true, Bool.not_false]
  · simp only [fast_pow.pow_B1_5_1_trace, fast_pow.pow_L_2TAG_PACKET_56_0_2_1_trace, fast_pow.pow_B1_3_1_trace,
      fast_pow.pow_L_2TAG_PACKET_17_0_2_1_trace, fast_pow.pow_L_2TAG_PACKET_34_0_2_1_trace]

/-- With a negative base in its stack slot, `L_2TAG_PACKET_35_0_2` continues at
`L_2TAG_PACKET_1_0_2`, or for a subnormal base through `L_2TAG_PACKET_8_0_2` at
`L_2TAG_PACKET_4_0_2`, in both cases with `tmp1 = 0`. -/
theorem pow_L35_next (cpu : Cpu) (s : Machine)
    (hx1 : 9223372036854775808 < s.get (.m 8)) (hx2 : s.get (.m 8) < 18446744073709551616) :
    ∃ t, (fast_pow.L_2TAG_PACKET_35_0_2 cpu s = fast_pow.L_2TAG_PACKET_1_0_2 cpu t ∨
        fast_pow.L_2TAG_PACKET_35_0_2 cpu s = fast_pow.L_2TAG_PACKET_4_0_2 cpu t) ∧
      t.get (.g tmp1) = 0 := by
  rw [fast_pow.pow_L_2TAG_PACKET_35_0_2_eq]
  by_cases h : cc_less (fast_pow.L_2TAG_PACKET_35_0_2_1 cpu s) = true
  · rw [if_pos h, fast_pow.pow_L_2TAG_PACKET_8_0_2_eq, if_neg]
    · refine ⟨_, Or.inr rfl, ?_⟩
      set_option maxRecDepth 8000 in
      simp only [
          ↓reduceIte, ↓fast_pow.pow_L_2TAG_PACKET_8_0_2_2_sem,
          ↓fast_pow.pow_L_2TAG_PACKET_8_0_2_1_sem,
          ↓fast_pow.pow_L_2TAG_PACKET_35_0_2_1_sem, ↓Machine.get_setx,
          ↓Machine.get_setg, ↓Machine.get_setstk, ↓Machine.get_enter,
          ↓Machine.get_setFlags, ↓Machine.trace_set, ↓Machine.get_ite,
          ↓Machine.trace_ite, ↓Machine.obs_eq_get, ↓Machine.flags_get,
          ↓Machine.flags_trace, ↓sem_get_1, ↓sem_get_2, ↓sem_get_3, ↓sem_get_4,
          ↓sem_trace_1, ↓sem_trace_2, ↓sem_trace_3, ↓sem_trace_4, ↓load_const, cc_iff,
          ea, and_imm, and_imm_left, ilog2_lit, or_eq_zero, or_mod32, or_lt_2p31,
          Nat.mod_mod, Nat.zero_or, Nat.or_zero, Nat.sub_zero, Nat.add_mod_right,
          lane_eq, Machine.io_eq_get, Nat.xor_self, Loc.x.injEq, Loc.g.injEq,
          Loc.m.injEq, Bool.toNat_eq_zero, Bool.toNat_eq_one, Nat.reducePow,
          Nat.reduceMul, Nat.reduceMod, Nat.reduceAdd, Nat.reduceSub, Nat.reduceDiv,
          Nat.reduceEqDiff, Nat.reduceLTLE, Nat.reduceLeDiff, Nat.reduceLT,
          Nat.reduceGT, Nat.reduceOr, Nat.reduceXor, reduceCtorEq, Bool.not_eq_true',
          Bool.not_eq_true, decide_eq_true_eq, decide_eq_false_iff_not,
          Bool.and_eq_true, Bool.or_eq_true, bne_iff_ne, beq_iff_eq, ne_eq,
          Bool.not_eq_false', Bool.not_eq_false, decide_not, not_not,
          Bool.decide_eq_true, Bool.false_eq_true, Bool.true_eq_false,
          not_false_eq_true, not_true_eq_false, and_true, true_and, and_false,
          false_and, or_true, true_or, or_false, false_or, not_true, not_false_iff,
          iff_self, true_iff, iff_true, false_iff, iff_false, ite_self,
          decide_eq_decide, decide_False, decide_True, Bool.not_true, Bool.not_false]
    · set_option maxRecDepth 8000 in
      simp only [
          ↓reduceIte, ↓fast_pow.pow_L_2TAG_PACKET_8_0_2_1_sem,
          ↓fast_pow.pow_L_2TAG_PACKET_35_0_2_1_sem, ↓Machine.get_setx,
          ↓Machine.get_setg, ↓Machine.get_setstk, ↓Machine.get_enter,
          ↓Machine.get_setFlags, ↓Machine.trace_set, ↓Machine.get_ite,
          ↓Machine.trace_ite, ↓Machine.obs_eq_get, ↓Machine.flags_get,
          ↓Machine.flags_trace, ↓sem_get_1, ↓sem_get_2, ↓sem_get_3, ↓sem_get_4,
          ↓sem_trace_1, ↓sem_trace_2, ↓sem_trace_3, ↓sem_trace_4, ↓load_const, cc_iff,
          ea, and_imm, and_imm_left, ilog2_lit, or_eq_zero, or_mod32, or_lt_2p31,
          Nat.mod_mod, Nat.zero_or, Nat.or_zero, Nat.sub_zero, Nat.add_mod_right,
          lane_eq, Machine.io_eq_get, Nat.xor_self, Loc.x.injEq, Loc.g.injEq,
          Loc.m.injEq, Bool.toNat_eq_zero, Bool.toNat_eq_one, Nat.reducePow,
          Nat.reduceMul, Nat.reduceMod, Nat.reduceAdd, Nat.reduceSub, Nat.reduceDiv,
          Nat.reduceEqDiff, Nat.reduceLTLE, Nat.reduceLeDiff, Nat.reduceLT,
          Nat.reduceGT, Nat.reduceOr, Nat.reduceXor, reduceCtorEq, Bool.not_eq_true',
          Bool.not_eq_true, decide_eq_true_eq, decide_eq_false_iff_not,
          Bool.and_eq_true, Bool.or_eq_true, bne_iff_ne, beq_iff_eq, ne_eq,
          Bool.not_eq_false', Bool.not_eq_false, decide_not, not_not,
          Bool.decide_eq_true, Bool.false_eq_true, Bool.true_eq_false,
          not_false_eq_true, not_true_eq_false, and_true, true_and, and_false,
          false_and, or_true, true_or, or_false, false_or, not_true, not_false_iff,
          iff_self, true_iff, iff_true, false_iff, iff_false, ite_self,
          decide_eq_decide, decide_False, decide_True, Bool.not_true, Bool.not_false]
      all_goals omega
  · rw [if_neg h]
    refine ⟨_, Or.inl rfl, ?_⟩
    set_option maxRecDepth 8000 in
    simp only [
        ↓reduceIte, ↓fast_pow.pow_L_2TAG_PACKET_35_0_2_2_sem,
        ↓fast_pow.pow_L_2TAG_PACKET_35_0_2_1_sem, ↓Machine.get_setx, ↓Machine.get_setg,
        ↓Machine.get_setstk, ↓Machine.get_enter, ↓Machine.get_setFlags,
        ↓Machine.trace_set, ↓Machine.get_ite, ↓Machine.trace_ite, ↓Machine.obs_eq_get,
        ↓Machine.flags_get, ↓Machine.flags_trace, ↓sem_get_1, ↓sem_get_2, ↓sem_get_3,
        ↓sem_get_4, ↓sem_trace_1, ↓sem_trace_2, ↓sem_trace_3, ↓sem_trace_4, ↓load_const,
        cc_iff, ea, and_imm, and_imm_left, ilog2_lit, or_eq_zero, or_mod32, or_lt_2p31,
        Nat.mod_mod, Nat.zero_or, Nat.or_zero, Nat.sub_zero, Nat.add_mod_right, lane_eq,
        Machine.io_eq_get, Nat.xor_self, Loc.x.injEq, Loc.g.injEq, Loc.m.injEq,
        Bool.toNat_eq_zero, Bool.toNat_eq_one, Nat.reducePow, Nat.reduceMul,
        Nat.reduceMod, Nat.reduceAdd, Nat.reduceSub, Nat.reduceDiv, Nat.reduceEqDiff,
        Nat.reduceLTLE, Nat.reduceLeDiff, Nat.reduceLT, Nat.reduceGT, Nat.reduceOr,
        Nat.reduceXor, reduceCtorEq, Bool.not_eq_true', Bool.not_eq_true,
        decide_eq_true_eq, decide_eq_false_iff_not, Bool.and_eq_true, Bool.or_eq_true,
        bne_iff_ne, beq_iff_eq, ne_eq, Bool.not_eq_false', Bool.not_eq_false, decide_not,
        not_not, Bool.decide_eq_true, Bool.false_eq_true, Bool.true_eq_false,
        not_false_eq_true, not_true_eq_false, and_true, true_and, and_false, false_and,
        or_true, true_or, or_false, false_or, not_true, not_false_iff, iff_self, true_iff,
        iff_true, false_iff, iff_false, ite_self, decide_eq_decide, decide_False,
        decide_True, Bool.not_true, Bool.not_false]

/-- With a negative base in its stack slot, `L_2TAG_PACKET_36_0_2` continues at
`L_2TAG_PACKET_1_0_2`, or for a subnormal base through `L_2TAG_PACKET_10_0_2` at
`L_2TAG_PACKET_4_0_2`, in both cases with `tmp1 = 0x80000000`. -/
theorem pow_L36_next (cpu : Cpu) (s : Machine)
    (hx1 : 9223372036854775808 < s.get (.m 8)) (hx2 : s.get (.m 8) < 18446744073709551616) :
    ∃ t, (fast_pow.L_2TAG_PACKET_36_0_2 cpu s = fast_pow.L_2TAG_PACKET_1_0_2 cpu t ∨
        fast_pow.L_2TAG_PACKET_36_0_2 cpu s = fast_pow.L_2TAG_PACKET_4_0_2 cpu t) ∧
      t.get (.g tmp1) = 0x80000000 := by
  rw [fast_pow.pow_L_2TAG_PACKET_36_0_2_eq]
  by_cases h : cc_less (fast_pow.L_2TAG_PACKET_36_0_2_1 cpu s) = true
  · rw [if_pos h, fast_pow.pow_L_2TAG_PACKET_10_0_2_eq, if_neg]
    · refine ⟨_, Or.inr rfl, ?_⟩
      set_option maxRecDepth 8000 in
      simp only [
          ↓reduceIte, ↓fast_pow.pow_L_2TAG_PACKET_10_0_2_2_sem,
          ↓fast_pow.pow_L_2TAG_PACKET_10_0_2_1_sem,
          ↓fast_pow.pow_L_2TAG_PACKET_36_0_2_1_sem, ↓Machine.get_setx,
          ↓Machine.get_setg, ↓Machine.get_setstk, ↓Machine.get_enter,
          ↓Machine.get_setFlags, ↓Machine.trace_set, ↓Machine.get_ite,
          ↓Machine.trace_ite, ↓Machine.obs_eq_get, ↓Machine.flags_get,
          ↓Machine.flags_trace, ↓sem_get_1, ↓sem_get_2, ↓sem_get_3, ↓sem_get_4,
          ↓sem_trace_1, ↓sem_trace_2, ↓sem_trace_3, ↓sem_trace_4, ↓load_const, cc_iff,
          ea, and_imm, and_imm_left, ilog2_lit, or_eq_zero, or_mod32, or_lt_2p31,
          Nat.mod_mod, Nat.zero_or, Nat.or_zero, Nat.sub_zero, Nat.add_mod_right,
          lane_eq, Machine.io_eq_get, Nat.xor_self, Loc.x.injEq, Loc.g.injEq,
          Loc.m.injEq, Bool.toNat_eq_zero, Bool.toNat_eq_one, Nat.reducePow,
          Nat.reduceMul, Nat.reduceMod, Nat.reduceAdd, Nat.reduceSub, Nat.reduceDiv,
          Nat.reduceEqDiff, Nat.reduceLTLE, Nat.reduceLeDiff, Nat.reduceLT,
          Nat.reduceGT, Nat.reduceOr, Nat.reduceXor, reduceCtorEq, Bool.not_eq_true',
          Bool.not_eq_true, decide_eq_true_eq, decide_eq_false_iff_not,
          Bool.and_eq_true, Bool.or_eq_true, bne_iff_ne, beq_iff_eq, ne_eq,
          Bool.not_eq_false', Bool.not_eq_false, decide_not, not_not,
          Bool.decide_eq_true, Bool.false_eq_true, Bool.true_eq_false,
          not_false_eq_true, not_true_eq_false, and_true, true_and, and_false,
          false_and, or_true, true_or, or_false, false_or, not_true, not_false_iff,
          iff_self, true_iff, iff_true, false_iff, iff_false, ite_self,
          decide_eq_decide, decide_False, decide_True, Bool.not_true, Bool.not_false]
    · set_option maxRecDepth 8000 in
      simp only [
          ↓reduceIte, ↓fast_pow.pow_L_2TAG_PACKET_10_0_2_1_sem,
          ↓fast_pow.pow_L_2TAG_PACKET_36_0_2_1_sem, ↓Machine.get_setx,
          ↓Machine.get_setg, ↓Machine.get_setstk, ↓Machine.get_enter,
          ↓Machine.get_setFlags, ↓Machine.trace_set, ↓Machine.get_ite,
          ↓Machine.trace_ite, ↓Machine.obs_eq_get, ↓Machine.flags_get,
          ↓Machine.flags_trace, ↓sem_get_1, ↓sem_get_2, ↓sem_get_3, ↓sem_get_4,
          ↓sem_trace_1, ↓sem_trace_2, ↓sem_trace_3, ↓sem_trace_4, ↓load_const, cc_iff,
          ea, and_imm, and_imm_left, ilog2_lit, or_eq_zero, or_mod32, or_lt_2p31,
          Nat.mod_mod, Nat.zero_or, Nat.or_zero, Nat.sub_zero, Nat.add_mod_right,
          lane_eq, Machine.io_eq_get, Nat.xor_self, Loc.x.injEq, Loc.g.injEq,
          Loc.m.injEq, Bool.toNat_eq_zero, Bool.toNat_eq_one, Nat.reducePow,
          Nat.reduceMul, Nat.reduceMod, Nat.reduceAdd, Nat.reduceSub, Nat.reduceDiv,
          Nat.reduceEqDiff, Nat.reduceLTLE, Nat.reduceLeDiff, Nat.reduceLT,
          Nat.reduceGT, Nat.reduceOr, Nat.reduceXor, reduceCtorEq, Bool.not_eq_true',
          Bool.not_eq_true, decide_eq_true_eq, decide_eq_false_iff_not,
          Bool.and_eq_true, Bool.or_eq_true, bne_iff_ne, beq_iff_eq, ne_eq,
          Bool.not_eq_false', Bool.not_eq_false, decide_not, not_not,
          Bool.decide_eq_true, Bool.false_eq_true, Bool.true_eq_false,
          not_false_eq_true, not_true_eq_false, and_true, true_and, and_false,
          false_and, or_true, true_or, or_false, false_or, not_true, not_false_iff,
          iff_self, true_iff, iff_true, false_iff, iff_false, ite_self,
          decide_eq_decide, decide_False, decide_True, Bool.not_true, Bool.not_false]
      all_goals omega
  · rw [if_neg h]
    refine ⟨_, Or.inl rfl, ?_⟩
    set_option maxRecDepth 8000 in
    simp only [
        ↓reduceIte, ↓fast_pow.pow_L_2TAG_PACKET_36_0_2_2_sem,
        ↓fast_pow.pow_L_2TAG_PACKET_36_0_2_1_sem, ↓Machine.get_setx, ↓Machine.get_setg,
        ↓Machine.get_setstk, ↓Machine.get_enter, ↓Machine.get_setFlags,
        ↓Machine.trace_set, ↓Machine.get_ite, ↓Machine.trace_ite, ↓Machine.obs_eq_get,
        ↓Machine.flags_get, ↓Machine.flags_trace, ↓sem_get_1, ↓sem_get_2, ↓sem_get_3,
        ↓sem_get_4, ↓sem_trace_1, ↓sem_trace_2, ↓sem_trace_3, ↓sem_trace_4, ↓load_const,
        cc_iff, ea, and_imm, and_imm_left, ilog2_lit, or_eq_zero, or_mod32, or_lt_2p31,
        Nat.mod_mod, Nat.zero_or, Nat.or_zero, Nat.sub_zero, Nat.add_mod_right, lane_eq,
        Machine.io_eq_get, Nat.xor_self, Loc.x.injEq, Loc.g.injEq, Loc.m.injEq,
        Bool.toNat_eq_zero, Bool.toNat_eq_one, Nat.reducePow, Nat.reduceMul,
        Nat.reduceMod, Nat.reduceAdd, Nat.reduceSub, Nat.reduceDiv, Nat.reduceEqDiff,
        Nat.reduceLTLE, Nat.reduceLeDiff, Nat.reduceLT, Nat.reduceGT, Nat.reduceOr,
        Nat.reduceXor, reduceCtorEq, Bool.not_eq_true', Bool.not_eq_true,
        decide_eq_true_eq, decide_eq_false_iff_not, Bool.and_eq_true, Bool.or_eq_true,
        bne_iff_ne, beq_iff_eq, ne_eq, Bool.not_eq_false', Bool.not_eq_false, decide_not,
        not_not, Bool.decide_eq_true, Bool.false_eq_true, Bool.true_eq_false,
        not_false_eq_true, not_true_eq_false, and_true, true_and, and_false, false_and,
        or_true, true_or, or_false, false_or, not_true, not_false_iff, iff_self, true_iff,
        iff_true, false_iff, iff_false, ite_self, decide_eq_decide, decide_False,
        decide_True, Bool.not_true, Bool.not_false]

theorem isOdd_isInteger (y : Nat) (h : f64IsOddInteger y = true) : f64IsInteger y = true := by
  simp only [f64IsOddInteger, f64IsInteger, decide_eq_true_eq, Bool.decide_and,
    Bool.decide_or, Bool.and_eq_true, Bool.or_eq_true] at h ⊢
  exact Or.inr (Or.inr ⟨h.1, h.2.1, h.2.2.1⟩)

/-- Numbering of the labels of `fast_pow` that separates `L_2TAG_PACKET_36_0_2` from
`L_2TAG_PACKET_34_0_2` and `L_2TAG_PACKET_35_0_2`. -/
theorem pow_rank_odd : ∀ b, ∀ c ∈ fast_pow.succ b,
    (fun x => if x ∈ [Label.L_2TAG_PACKET_35_0_2, Label.L_2TAG_PACKET_34_0_2,
      Label.L_2TAG_PACKET_33_0_2, Label.L_2TAG_PACKET_32_0_2, Label.L_2TAG_PACKET_7_0_2,
      Label.L_2TAG_PACKET_0_0_2, Label.B1_2, Label.start, Label.entry]
      then fast_pow.rank x + 100 else fast_pow.rank x) c <
    (fun x => if x ∈ [Label.L_2TAG_PACKET_35_0_2, Label.L_2TAG_PACKET_34_0_2,
      Label.L_2TAG_PACKET_33_0_2, Label.L_2TAG_PACKET_32_0_2, Label.L_2TAG_PACKET_7_0_2,
      Label.L_2TAG_PACKET_0_0_2, Label.B1_2, Label.start, Label.entry]
      then fast_pow.rank x + 100 else fast_pow.rank x) b := by
  intro b
  cases b <;> decide

end MacroAssembler

namespace MacroAssembler
open XReg GReg Machine

/-! ### The main path of `fast_exp` -/

theorem fast_exp_branch (cpu : Cpu) (s : Machine) :
    (cc_aboveEqual (fast_exp.start_1 cpu (fast_exp.entry_1 cpu s)) = true) ↔
      ¬ (15504 ≤ s.arg0 / 2 ^ 48 % 32768 ∧ s.arg0 / 2 ^ 48 % 32768 ≤ 16527) := by
  simp only [Machine.io_eq_get, Nat.reducePow]
  set_option maxRecDepth 8000 in
  simp only [
      ↓reduceIte, ↓fast_exp.exp_start_1_sem, ↓fast_exp.exp_entry_1_sem, or_mod32,
      Nat.mod_mod, or_lt_2p31, pextrw3_mk, ↓Machine.get_setx, ↓Machine.get_setg,
      ↓Machine.get_setstk, ↓Machine.get_enter, ↓Machine.get_setFlags, ↓Machine.trace_set,
      ↓Machine.get_ite, ↓Machine.trace_ite, ↓Machine.obs_eq_get, ↓Machine.flags_get,
      ↓Machine.flags_trace, ↓sem_get_1, ↓sem_get_2, ↓sem_get_3, ↓sem_get_4, ↓sem_trace_1,
      ↓sem_trace_2, ↓sem_trace_3, ↓sem_trace_4, ↓load_const, cc_iff, ea, and_imm,
      and_imm_left, ilog2_lit, or_eq_zero, or_mod32, or_lt_2p31, Nat.mod_mod, Nat.zero_or,
      Nat.or_zero, Nat.sub_zero, Nat.add_mod_right, lane_eq, Machine.io_eq_get,
      Nat.xor_self, Loc.x.injEq, Loc.g.injEq, Loc.m.injEq, Bool.toNat_eq_zero,
      Bool.toNat_eq_one, Nat.reducePow, Nat.reduceMul, Nat.reduceMod, Nat.reduceAdd,
      Nat.reduceSub, Nat.reduceDiv, Nat.reduceEqDiff, Nat.reduceLTLE, Nat.reduceLeDiff,
      Nat.reduceLT, Nat.reduceGT, Nat.reduceOr, Nat.reduceXor, reduceCtorEq,
      Bool.not_eq_true', Bool.not_eq_true, decide_eq_true_eq, decide_eq_false_iff_not,
      Bool.and_eq_true, Bool.or_eq_true, bne_iff_ne, beq_iff_eq, ne_eq, Bool.not_eq_false',
      Bool.not_eq_false, decide_not, not_not, Bool.decide_eq_true, Bool.false_eq_true,
      Bool.true_eq_false, not_false_eq_true, not_true_eq_false, and_true, true_and,
      and_false, false_and, or_true, true_or, or_false, false_or, not_true, not_false_iff,
      iff_self, true_iff, iff_true, false_iff, iff_false, ite_self, decide_eq_decide,
      decide_False, decide_True, Bool.not_true, Bool.not_false]
  omega

/-- When the top 16 bits of `|x|` are in `[15504, 16527]`, `fast_exp` runs the range reduction
`start_2` and then either branches to `L_2TAG_PACKET_1_0_2` or finishes with `start_3`. -/
theorem exp_main_run (cpu : Cpu) (s : Machine)
    (h1 : 15504 ≤ s.arg0 / 2 ^ 48 % 32768) (h2 : s.arg0 / 2 ^ 48 % 32768 ≤ 16527) :
    fast_exp cpu s =
      if cc_above (fast_exp.start_2 cpu (fast_exp.start_1 cpu (fast_exp.entry_1 cpu s))) = true
      then fast_exp.L_2TAG_PACKET_1_0_2 cpu
        (fast_exp.start_2 cpu (fast_exp.start_1 cpu (fast_exp.entry_1 cpu s)))
      else fast_exp.B1_5 cpu (fast_exp.start_3 cpu
        (fast_exp.start_2 cpu (fast_exp.start_1 cpu (fast_exp.entry_1 cpu s)))) := by
  have hb : ¬ cc_aboveEqual (fast_exp.start_1 cpu (fast_exp.entry_1 cpu s)) = true :=
    fun h => (fast_exp_branch cpu s).1 h ⟨h1, h2⟩
  rw [fast_exp, fast_exp.exp_entry_eq, fast_exp.exp_start_eq, if_neg hb]

/-- The rounded integer of the range reduction is the low half of
`x * (64 / ln 2) + 1.5 * 2^52`. -/
theorem exp_roundedM (cpu : Cpu) (s : Machine) :
    fast_exp.roundedM (fast_exp.start_1 cpu (fast_exp.entry_1 cpu s)) =
      f64Add (f64Mul 0x40571547652b82fe s.arg0) 0x4338000000000000 % 2 ^ 32 := by
  simp only [fast_exp.roundedM, Machine.io_eq_get, Nat.reducePow]
  set_option maxRecDepth 8000 in
  simp only [
      ↓reduceIte, ↓fast_exp.exp_start_1_sem, ↓fast_exp.exp_entry_1_sem, ↓Machine.get_setx,
      ↓Machine.get_setg, ↓Machine.get_setstk, ↓Machine.get_enter, ↓Machine.get_setFlags,
      ↓Machine.trace_set, ↓Machine.get_ite, ↓Machine.trace_ite, ↓Machine.obs_eq_get,
      ↓Machine.flags_get, ↓Machine.flags_trace, ↓sem_get_1, ↓sem_get_2, ↓sem_get_3,
      ↓sem_get_4, ↓sem_trace_1, ↓sem_trace_2, ↓sem_trace_3, ↓sem_trace_4, ↓load_const,
      cc_iff, ea, and_imm, and_imm_left, ilog2_lit, or_eq_zero, or_mod32, or_lt_2p31,
      Nat.mod_mod, Nat.zero_or, Nat.or_zero, Nat.sub_zero, Nat.add_mod_right, lane_eq,
      Machine.io_eq_get, Nat.xor_self, Loc.x.injEq, Loc.g.injEq, Loc.m.injEq,
      Bool.toNat_eq_zero, Bool.toNat_eq_one, Nat.reducePow, Nat.reduceMul, Nat.reduceMod,
      Nat.reduceAdd, Nat.reduceSub, Nat.reduceDiv, Nat.reduceEqDiff, Nat.reduceLTLE,
      Nat.reduceLeDiff, Nat.reduceLT, Nat.reduceGT, Nat.reduceOr, Nat.reduceXor,
      reduceCtorEq, Bool.not_eq_true', Bool.not_eq_true, decide_eq_true_eq,
      decide_eq_false_iff_not, Bool.and_eq_true, Bool.or_eq_true, bne_iff_ne, beq_iff_eq,
      ne_eq, Bool.not_eq_false', Bool.not_eq_false, decide_not, not_not,
      Bool.decide_eq_true, Bool.false_eq_true, Bool.true_eq_false, not_false_eq_true,
      not_true_eq_false, and_true, true_and, and_false, false_and, or_true, true_or,
      or_false, false_or, not_true, not_false_iff, iff_self, true_iff, iff_true, false_iff,
      iff_false, ite_self, decide_eq_decide, decide_False, decide_True, Bool.not_true,
      Bool.not_false]
  generalize hx : s.get (.x xmm0) % 18446744073709551616 = x
  have hlt : x < 18446744073709551616 := by
    rw [← hx]
    exact Nat.mod_lt _ (by decide)
  have e1 : (x + 18446744073709551616 * x) % 18446744073709551616 = x := by omega
  rw [e1]
  have hp := f64Mul_lt 4636197737785426686 x (by decide) hlt
  generalize f64Mul 4636197737785426686 x = p at hp ⊢
  generalize f64Mul 4636197737785426686 _ = p2
  have e2 : (p + 18446744073709551616 * p2) % 18446744073709551616 = p := by omega
  rw [e2]
  generalize f64Add p 4843621399236968448 = a
  generalize f64Add _ 4843621399236968448 = a2
  omega

end MacroAssembler

namespace MacroAssembler
open XReg GReg Machine

/-! ### Reaching the main path of `fast_pow` -/

/-- Numbering of the labels of `fast_pow` that puts `L_2TAG_PACKET_4_0_2` and the labels from
which it can be reached above all others. -/
theorem pow_rank_main : ∀ b, ∀ c ∈ fast_pow.succ b,
    (fun x => if x ∈ [Label.L_2TAG_PACKET_4_0_2, Label.L_2TAG_PACKET_8_0_2,
      Label.L_2TAG_PACKET_3_0_2, Label.L_2TAG_PACKET_2_0_2, Label.L_2TAG_PACKET_1_0_2,
      Label.L_2TAG_PACKET_35_0_2, Label.L_2TAG_PACKET_10_0_2, Label.L_2TAG_PACKET_36_0_2,
      Label.L_2TAG_PACKET_33_0_2, Label.L_2TAG_PACKET_32_0_2, Label.L_2TAG_PACKET_7_0_2,
      Label.L_2TAG_PACKET_0_0_2, Label.B1_2, Label.start, Label.entry]
      then fast_pow.rank x + 100 else fast_pow.rank x) c <
    (fun x => if x ∈ [Label.L_2TAG_PACKET_4_0_2, Label.L_2TAG_PACKET_8_0_2,
      Label.L_2TAG_PACKET_3_0_2, Label.L_2TAG_PACKET_2_0_2, Label.L_2TAG_PACKET_1_0_2,
      Label.L_2TAG_PACKET_35_0_2, Label.L_2TAG_PACKET_10_0_2, Label.L_2TAG_PACKET_36_0_2,
      Label.L_2TAG_PACKET_33_0_2, Label.L_2TAG_PACKET_32_0_2, Label.L_2TAG_PACKET_7_0_2,
      Label.L_2TAG_PACKET_0_0_2, Label.B1_2, Label.start, Label.entry]
      then fast_pow.rank x + 100 else fast_pow.rank x) b := by
  intro b
  cases b <;> decide

theorem avoid_of_descends (rk : Label → Nat) (b : Label) (r s : Machine)
    (hd : Descends rk b r.trace s.trace) (hb : rk b < rk Label.L_2TAG_PACKET_4_0_2) :
    fast_pow.AvoidsMain r s := by
  obtain ⟨l, e, hl⟩ := descends_lt _ _ _ _ hd
  refine ⟨l ++ [b], by rw [e]; simp, ?_⟩
  intro hm
  rcases List.mem_append.1 hm with h | h
  · have h1 := hl _ h
    omega
  · rw [← List.mem_singleton.1 h] at hb
    exact absurd hb (Nat.lt_irrefl _)

theorem avoid_step (r s t : Machine) (b : Label) (h : fast_pow.AvoidsMain r t)
    (ht : t.trace = b :: s.trace) (hb : b ≠ Label.L_2TAG_PACKET_4_0_2) :
    fast_pow.AvoidsMain r s := by
  obtain ⟨l, e, hl⟩ := h
  refine ⟨l ++ [b], by rw [e, ht]; simp, ?_⟩
  intro hm
  rcases List.mem_append.1 hm with h | h
  · exact hl h
  · exact hb (List.mem_singleton.1 h).symm

theorem reach_step (cpu : Cpu) (r s t : Machine) (k : Int) (y : Nat) (b : Label)
    (h : fast_pow.ReachesMain cpu r t k y) (ht : t.trace = b :: s.trace)
    (h4 : b ≠ Label.L_2TAG_PACKET_4_0_2) (h5 : b ≠ Label.L_2TAG_PACKET_5_0_2) :
    fast_pow.ReachesMain cpu r s k y := by
  obtain ⟨u, p, e, tr, n4, n5, hy, hk⟩ := h
  refine ⟨u, p ++ [b], e, by rw [tr, ht]; simp, ?_, ?_, hy, hk⟩
  · intro hm
    rcases List.mem_append.1 hm with h | h
    · exact n4 h
    · exact h4 (List.mem_singleton.1 h).symm
  · intro hm
    rcases List.mem_append.1 hm with h | h
    · exact n5 h
    · exact h5 (List.mem_singleton.1 h).symm

/-- From `L_2TAG_PACKET_3_0_2`, entered with the top 16 bits `E` of a normal `|x|` minus 16367
in `eax`, the run enters `L_2TAG_PACKET_4_0_2` with the unbiased exponent of `x` in `eax`. -/
theorem pow_L3_main (cpu : Cpu) (s : Machine) (E y : Nat) (hE1 : 16 ≤ E) (hE2 : E < 32752)
    (ha : s.get (.g eax) % 4294967296 = (E + 4294950929) % 4294967296)
    (hy : s.get (.m 16) = y) :
    fast_pow.ReachesMain cpu (fast_pow.L_2TAG_PACKET_3_0_2 cpu s) s ((E / 16 : Nat) - 1023) y := by
  refine ⟨fast_pow.L_2TAG_PACKET_3_0_2_1 cpu s, [Label.L_2TAG_PACKET_3_0_2],
    fast_pow.pow_L_2TAG_PACKET_3_0_2_eq cpu s, ?_, by decide, by decide, ?_, ?_⟩
  · rw [fast_pow.pow_L_2TAG_PACKET_3_0_2_1_trace]
    rfl
  · set_option maxRecDepth 8000 in
    simp only [
        ↓reduceIte, ↓fast_pow.pow_L_2TAG_PACKET_3_0_2_1_sem, hy, ↓Machine.get_setx,
        ↓Machine.get_setg, ↓Machine.get_setstk, ↓Machine.get_enter, ↓Machine.get_setFlags,
        ↓Machine.trace_set, ↓Machine.get_ite, ↓Machine.trace_ite, ↓Machine.obs_eq_get,
        ↓Machine.flags_get, ↓Machine.flags_trace, ↓sem_get_1, ↓sem_get_2, ↓sem_get_3,
        ↓sem_get_4, ↓sem_trace_1, ↓sem_trace_2, ↓sem_trace_3, ↓sem_trace_4, ↓load_const,
        cc_iff, ea, and_imm, and_imm_left, ilog2_lit, or_eq_zero, or_mod32, or_lt_2p31,
        Nat.mod_mod, Nat.zero_or, Nat.or_zero, Nat.sub_zero, Nat.add_mod_right, lane_eq,
        Machine.io_eq_get, Nat.xor_self, Loc.x.injEq, Loc.g.injEq, Loc.m.injEq,
        Bool.toNat_eq_zero, Bool.toNat_eq_one, Nat.reducePow, Nat.reduceMul,
        Nat.reduceMod, Nat.reduceAdd, Nat.reduceSub, Nat.reduceDiv, Nat.reduceEqDiff,
        Nat.reduceLTLE, Nat.reduceLeDiff, Nat.reduceLT, Nat.reduceGT, Nat.reduceOr,
        Nat.reduceXor, reduceCtorEq, Bool.not_eq_true', Bool.not_eq_true,
        decide_eq_true_eq, decide_eq_false_iff_not, Bool.and_eq_true, Bool.or_eq_true,
        bne_iff_ne, beq_iff_eq, ne_eq, Bool.not_eq_false', Bool.not_eq_false, decide_not,
        not_not, Bool.decide_eq_true, Bool.false_eq_true, Bool.true_eq_false,
        not_false_eq_true, not_true_eq_false, and_true, true_and, and_false, false_and,
        or_true, true_or, or_false, false_or, not_true, not_false_iff, iff_self, true_iff,
        iff_true, false_iff, iff_false, ite_self, decide_eq_decide, decide_False,
        decide_True, Bool.not_true, Bool.not_false]
  · simp only [toInt32]
    set_option maxRecDepth 8000 in
    simp only [
        ↓reduceIte, ↓fast_pow.pow_L_2TAG_PACKET_3_0_2_1_sem, ha, ↓Machine.get_setx,
        ↓Machine.get_setg, ↓Machine.get_setstk, ↓Machine.get_enter, ↓Machine.get_setFlags,
        ↓Machine.trace_set, ↓Machine.get_ite, ↓Machine.trace_ite, ↓Machine.obs_eq_get,
        ↓Machine.flags_get, ↓Machine.flags_trace, ↓sem_get_1, ↓sem_get_2, ↓sem_get_3,
        ↓sem_get_4, ↓sem_trace_1, ↓sem_trace_2, ↓sem_trace_3, ↓sem_trace_4, ↓load_const,
        cc_iff, ea, and_imm, and_imm_left, ilog2_lit, or_eq_zero, or_mod32, or_lt_2p31,
        Nat.mod_mod, Nat.zero_or, Nat.or_zero, Nat.sub_zero, Nat.add_mod_right, lane_eq,
        Machine.io_eq_get, Nat.xor_self, Loc.x.injEq, Loc.g.injEq, Loc.m.injEq,
        Bool.toNat_eq_zero, Bool.toNat_eq_one, Nat.reducePow, Nat.reduceMul,
        Nat.reduceMod, Nat.reduceAdd, Nat.reduceSub, Nat.reduceDiv, Nat.reduceEqDiff,
        Nat.reduceLTLE, Nat.reduceLeDiff, Nat.reduceLT, Nat.reduceGT, Nat.reduceOr,
        Nat.reduceXor, reduceCtorEq, Bool.not_eq_true', Bool.not_eq_true,
        decide_eq_true_eq, decide_eq_false_iff_not, Bool.and_eq_true, Bool.or_eq_true,
        bne_iff_ne, beq_iff_eq, ne_eq, Bool.not_eq_false', Bool.not_eq_false, decide_not,
        not_not, Bool.decide_eq_true, Bool.false_eq_true, Bool.true_eq_false,
        not_false_eq_true, not_true_eq_false, and_true, true_and, and_false, false_and,
        or_true, true_or, or_false, false_or, not_true, not_false_iff, iff_self, true_iff,
        iff_true, false_iff, iff_false, ite_self, decide_eq_decide, decide_False,
        decide_True, Bool.not_true, Bool.not_false]
    split_ifs <;> omega

/-- From `L_2TAG_PACKET_2_0_2` (base near one) the run goes on to `L_2TAG_PACKET_3_0_2` and
`L_2TAG_PACKET_4_0_2` when the exponent field of `y` is below 1035, and never enters
`L_2TAG_PACKET_4_0_2` otherwise. -/
theorem pow_L2_main (cpu : Cpu) (s : Machine) (E y : Nat) (hE1 : 16 ≤ E) (hE2 : E < 32752)
    (ha : s.get (.g eax) % 4294967296 = (E + 4294950929) % 4294967296)
    (hy : s.get (.m 16) = y) :
    (y / 2 ^ 52 % 2048 < 1035 →
      fast_pow.ReachesMain cpu (fast_pow.L_2TAG_PACKET_2_0_2 cpu s) s ((E / 16 : Nat) - 1023) y) ∧
    (¬ y / 2 ^ 52 % 2048 < 1035 →
      fast_pow.AvoidsMain (fast_pow.L_2TAG_PACKET_2_0_2 cpu s) s) := by
  have hc : cc_less (fast_pow.L_2TAG_PACKET_2_0_2_1 cpu s) = true ↔ y / 2 ^ 52 % 2048 < 1035 := by
    rw [← hy]
    set_option maxRecDepth 8000 in
    simp only [
        ↓reduceIte, ↓fast_pow.pow_L_2TAG_PACKET_2_0_2_1_sem, ↓Machine.get_setx,
        ↓Machine.get_setg, ↓Machine.get_setstk, ↓Machine.get_enter, ↓Machine.get_setFlags,
        ↓Machine.trace_set, ↓Machine.get_ite, ↓Machine.trace_ite, ↓Machine.obs_eq_get,
        ↓Machine.flags_get, ↓Machine.flags_trace, ↓sem_get_1, ↓sem_get_2, ↓sem_get_3,
        ↓sem_get_4, ↓sem_trace_1, ↓sem_trace_2, ↓sem_trace_3, ↓sem_trace_4, ↓load_const,
        cc_iff, ea, and_imm, and_imm_left, ilog2_lit, or_eq_zero, or_mod32, or_lt_2p31,
        Nat.mod_mod, Nat.zero_or, Nat.or_zero, Nat.sub_zero, Nat.add_mod_right, lane_eq,
        Machine.io_eq_get, Nat.xor_self, Loc.x.injEq, Loc.g.injEq, Loc.m.injEq,
        Bool.toNat_eq_zero, Bool.toNat_eq_one, Nat.reducePow, Nat.reduceMul,
        Nat.reduceMod, Nat.reduceAdd, Nat.reduceSub, Nat.reduceDiv, Nat.reduceEqDiff,
        Nat.reduceLTLE, Nat.reduceLeDiff, Nat.reduceLT, Nat.reduceGT, Nat.reduceOr,
        Nat.reduceXor, reduceCtorEq, Bool.not_eq_true', Bool.not_eq_true,
        decide_eq_true_eq, decide_eq_false_iff_not, Bool.and_eq_true, Bool.or_eq_true,
        bne_iff_ne, beq_iff_eq, ne_eq, Bool.not_eq_false', Bool.not_eq_false, decide_not,
        not_not, Bool.decide_eq_true, Bool.false_eq_true, Bool.true_eq_false,
        not_false_eq_true, not_true_eq_false, and_true, true_and, and_false, false_and,
        or_true, true_or, or_false, false_or, not_true, not_false_iff, iff_self, true_iff,
        iff_true, false_iff, iff_false, ite_self, decide_eq_decide, decide_False,
        decide_True, Bool.not_true, Bool.not_false]
    all_goals omega
  constructor
  · intro h
    rw [fast_pow.pow_L_2TAG_PACKET_2_0_2_eq, if_pos (hc.2 h)]
    refine reach_step cpu _ s _ _ _ Label.L_2TAG_PACKET_2_0_2
      (pow_L3_main cpu (fast_pow.L_2TAG_PACKET_2_0_2_1 cpu s) E y hE1 hE2 ?_ ?_) ?_ (by decide) (by decide)
    · set_option maxRecDepth 8000 in
      simp only [
          ↓reduceIte, ↓fast_pow.pow_L_2TAG_PACKET_2_0_2_1_sem, ha, ↓Machine.get_setx,
          ↓Machine.get_setg, ↓Machine.get_setstk, ↓Machine.get_enter,
          ↓Machine.get_setFlags, ↓Machine.trace_set, ↓Machine.get_ite,
          ↓Machine.trace_ite, ↓Machine.obs_eq_get, ↓Machine.flags_get,
          ↓Machine.flags_trace, ↓sem_get_1, ↓sem_get_2, ↓sem_get_3, ↓sem_get_4,
          ↓sem_trace_1, ↓sem_trace_2, ↓sem_trace_3, ↓sem_trace_4, ↓load_const, cc_iff,
          ea, and_imm, and_imm_left, ilog2_lit, or_eq_zero, or_mod32, or_lt_2p31,
          Nat.mod_mod, Nat.zero_or, Nat.or_zero, Nat.sub_zero, Nat.add_mod_right,
          lane_eq, Machine.io_eq_get, Nat.xor_self, Loc.x.injEq, Loc.g.injEq,
          Loc.m.injEq, Bool.toNat_eq_zero, Bool.toNat_eq_one, Nat.reducePow,
          Nat.reduceMul, Nat.reduceMod, Nat.reduceAdd, Nat.reduceSub, Nat.reduceDiv,
          Nat.reduceEqDiff, Nat.reduceLTLE, Nat.reduceLeDiff, Nat.reduceLT,
          Nat.reduceGT, Nat.reduceOr, Nat.reduceXor, reduceCtorEq, Bool.not_eq_true',
          Bool.not_eq_true, decide_eq_true_eq, decide_eq_false_iff_not,
          Bool.and_eq_true, Bool.or_eq_true, bne_iff_ne, beq_iff_eq, ne_eq,
          Bool.not_eq_false', Bool.not_eq_false, decide_not, not_not,
          Bool.decide_eq_true, Bool.false_eq_true, Bool.true_eq_false,
          not_false_eq_true, not_true_eq_false, and_true, true_and, and_false,
          false_and, or_true, true_or, or_false, false_or, not_true, not_false_iff,
          iff_self, true_iff, iff_true, false_iff, iff_false, ite_self,
          decide_eq_decide, decide_False, decide_True, Bool.not_true, Bool.not_false]
    · set_option maxRecDepth 8000 in
      simp only [
          ↓reduceIte, ↓fast_pow.pow_L_2TAG_PACKET_2_0_2_1_sem, hy, ↓Machine.get_setx,
          ↓Machine.get_setg, ↓Machine.get_setstk, ↓Machine.get_enter,
          ↓Machine.get_setFlags, ↓Machine.trace_set, ↓Machine.get_ite,
          ↓Machine.trace_ite, ↓Machine.obs_eq_get, ↓Machine.flags_get,
          ↓Machine.flags_trace, ↓sem_get_1, ↓sem_get_2, ↓sem_get_3, ↓sem_get_4,
          ↓sem_trace_1, ↓sem_trace_2, ↓sem_trace_3, ↓sem_trace_4, ↓load_const, cc_iff,
          ea, and_imm, and_imm_left, ilog2_lit, or_eq_zero, or_mod32, or_lt_2p31,
          Nat.mod_mod, Nat.zero_or, Nat.or_zero, Nat.sub_zero, Nat.add_mod_right,
          lane_eq, Machine.io_eq_get, Nat.xor_self, Loc.x.injEq, Loc.g.injEq,
          Loc.m.injEq, Bool.toNat_eq_zero, Bool.toNat_eq_one, Nat.reducePow,
          Nat.reduceMul, Nat.reduceMod, Nat.reduceAdd, Nat.reduceSub, Nat.reduceDiv,
          Nat.reduceEqDiff, Nat.reduceLTLE, Nat.reduceLeDiff, Nat.reduceLT,
          Nat.reduceGT, Nat.reduceOr, Nat.reduceXor, reduceCtorEq, Bool.not_eq_true',
          Bool.not_eq_true, decide_eq_true_eq, decide_eq_false_iff_not,
          Bool.and_eq_true, Bool.or_eq_true, bne_iff_ne, beq_iff_eq, ne_eq,
          Bool.not_eq_false', Bool.not_eq_false, decide_not, not_not,
          Bool.decide_eq_true, Bool.false_eq_true, Bool.true_eq_false,
          not_false_eq_true, not_true_eq_false, and_true, true_and, and_false,
          false_and, or_true, true_or, or_false, false_or, not_true, not_false_iff,
          iff_self, true_iff, iff_true, false_iff, iff_false, ite_self,
          decide_eq_decide, decide_False, decide_True, Bool.not_true, Bool.not_false]
    · rw [fast_pow.pow_L_2TAG_PACKET_2_0_2_1_trace]
  · intro h
    rw [fast_pow.pow_L_2TAG_PACKET_2_0_2_eq, if_neg (mt hc.1 h)]
    split_ifs
    · exact avoid_step _ s _ Label.L_2TAG_PACKET_2_0_2 (avoid_of_descends _ _ _ _
        (fast_pow.pow_L_2TAG_PACKET_45_0_2_descends _ pow_rank_main cpu _) (by decide))
        (by rw [fast_pow.pow_L_2TAG_PACKET_2_0_2_2_trace, fast_pow.pow_L_2TAG_PACKET_2_0_2_1_trace]) (by decide)
    · exact avoid_step _ s _ Label.L_2TAG_PACKET_2_0_2 (avoid_of_descends _ _ _ _
        (fast_pow.pow_L_2TAG_PACKET_51_0_2_descends _ pow_rank_main cpu _) (by decide))
        (by rw [fast_pow.pow_L_2TAG_PACKET_2_0_2_3_trace, fast_pow.pow_L_2TAG_PACKET_2_0_2_2_trace, fast_pow.pow_L_2TAG_PACKET_2_0_2_1_trace]) (by decide)
    · exact avoid_step _ s _ Label.L_2TAG_PACKET_2_0_2 (avoid_of_descends _ _ _ _
        (fast_pow.pow_L_2TAG_PACKET_12_0_2_descends _ pow_rank_main cpu _) (by decide))
        (by rw [fast_pow.pow_L_2TAG_PACKET_2_0_2_4_trace, fast_pow.pow_L_2TAG_PACKET_2_0_2_3_trace, fast_pow.pow_L_2TAG_PACKET_2_0_2_2_trace, fast_pow.pow_L_2TAG_PACKET_2_0_2_1_trace]) (by decide)
    · exact avoid_step _ s _ Label.L_2TAG_PACKET_2_0_2 (avoid_of_descends _ _ _ _
        (fast_pow.pow_L_2TAG_PACKET_13_0_2_descends _ pow_rank_main cpu _) (by decide))
        (by rw [fast_pow.pow_L_2TAG_PACKET_2_0_2_5_trace, fast_pow.pow_L_2TAG_PACKET_2_0_2_4_trace, fast_pow.pow_L_2TAG_PACKET_2_0_2_3_trace, fast_pow.pow_L_2TAG_PACKET_2_0_2_2_trace, fast_pow.pow_L_2TAG_PACKET_2_0_2_1_trace]) (by decide)
    · exact avoid_step _ s _ Label.L_2TAG_PACKET_2_0_2 (avoid_of_descends _ _ _ _
        (fast_pow.pow_L_2TAG_PACKET_14_0_2_descends _ pow_rank_main cpu _) (by decide))
        (by rw [fast_pow.pow_L_2TAG_PACKET_2_0_2_6_trace, fast_pow.pow_L_2TAG_PACKET_2_0_2_5_trace, fast_pow.pow_L_2TAG_PACKET_2_0_2_4_trace, fast_pow.pow_L_2TAG_PACKET_2_0_2_3_trace, fast_pow.pow_L_2TAG_PACKET_2_0_2_2_trace, fast_pow.pow_L_2TAG_PACKET_2_0_2_1_trace]) (by decide)
    · exact avoid_step _ s _ Label.L_2TAG_PACKET_2_0_2 (avoid_of_descends _ _ _ _
        (fast_pow.pow_L_2TAG_PACKET_52_0_2_descends _ pow_rank_main cpu _) (by decide))
        (by rw [fast_pow.pow_L_2TAG_PACKET_2_0_2_7_trace, fast_pow.pow_L_2TAG_PACKET_2_0_2_6_trace, fast_pow.pow_L_2TAG_PACKET_2_0_2_5_trace, fast_pow.pow_L_2TAG_PACKET_2_0_2_4_trace, fast_pow.pow_L_2TAG_PACKET_2_0_2_3_trace, fast_pow.pow_L_2TAG_PACKET_2_0_2_2_trace, fast_pow.pow_L_2TAG_PACKET_2_0_2_1_trace]) (by decide)

/-- From `L_2TAG_PACKET_1_0_2`, entered with the top 16 bits `E` of a normal `|x|` minus 16 in
`eax`: the run enters `L_2TAG_PACKET_4_0_2` with the unbiased exponent of `x` in `eax` unless
`E` is 16367 or 16368 (`x` near one) and the exponent field of `y` is at least 1035. -/
theorem pow_L1_main (cpu : Cpu) (s : Machine) (E y : Nat) (hE1 : 16 ≤ E) (hE2 : E < 32752)
    (ha : s.get (.g eax) % 4294967296 = E - 16) (hy : s.get (.m 16) = y) :
    (((E ≠ 16367 ∧ E ≠ 16368) ∨ y / 2 ^ 52 % 2048 < 1035) →
      fast_pow.ReachesMain cpu (fast_pow.L_2TAG_PACKET_1_0_2 cpu s) s ((E / 16 : Nat) - 1023) y) ∧
    (¬ ((E ≠ 16367 ∧ E ≠ 16368) ∨ y / 2 ^ 52 % 2048 < 1035) →
      fast_pow.AvoidsMain (fast_pow.L_2TAG_PACKET_1_0_2 cpu s) s) := by
  have hc : cc_belowEqual (fast_pow.L_2TAG_PACKET_1_0_2_1 cpu s) = true ↔ (E = 16367 ∨ E = 16368) := by
    set_option maxRecDepth 8000 in
    simp only [
        ↓reduceIte, ↓fast_pow.pow_L_2TAG_PACKET_1_0_2_1_sem, ha, ↓Machine.get_setx,
        ↓Machine.get_setg, ↓Machine.get_setstk, ↓Machine.get_enter, ↓Machine.get_setFlags,
        ↓Machine.trace_set, ↓Machine.get_ite, ↓Machine.trace_ite, ↓Machine.obs_eq_get,
        ↓Machine.flags_get, ↓Machine.flags_trace, ↓sem_get_1, ↓sem_get_2, ↓sem_get_3,
        ↓sem_get_4, ↓sem_trace_1, ↓sem_trace_2, ↓sem_trace_3, ↓sem_trace_4, ↓load_const,
        cc_iff, ea, and_imm, and_imm_left, ilog2_lit, or_eq_zero, or_mod32, or_lt_2p31,
        Nat.mod_mod, Nat.zero_or, Nat.or_zero, Nat.sub_zero, Nat.add_mod_right, lane_eq,
        Machine.io_eq_get, Nat.xor_self, Loc.x.injEq, Loc.g.injEq, Loc.m.injEq,
        Bool.toNat_eq_zero, Bool.toNat_eq_one, Nat.reducePow, Nat.reduceMul,
        Nat.reduceMod, Nat.reduceAdd, Nat.reduceSub, Nat.reduceDiv, Nat.reduceEqDiff,
        Nat.reduceLTLE, Nat.reduceLeDiff, Nat.reduceLT, Nat.reduceGT, Nat.reduceOr,
        Nat.reduceXor, reduceCtorEq, Bool.not_eq_true', Bool.not_eq_true,
        decide_eq_true_eq, decide_eq_false_iff_not, Bool.and_eq_true, Bool.or_eq_true,
        bne_iff_ne, beq_iff_eq, ne_eq, Bool.not_eq_false', Bool.not_eq_false, decide_not,
        not_not, Bool.decide_eq_true, Bool.false_eq_true, Bool.true_eq_false,
        not_false_eq_true, not_true_eq_false, and_true, true_and, and_false, false_and,
        or_true, true_or, or_false, false_or, not_true, not_false_iff, iff_self, true_iff,
        iff_true, false_iff, iff_false, ite_self, decide_eq_decide, decide_False,
        decide_True, Bool.not_true, Bool.not_false]
    all_goals omega
  have a1 : (fast_pow.L_2TAG_PACKET_1_0_2_1 cpu s).get (.g eax) % 4294967296 = (E + 4294950929) % 4294967296 := by
    set_option maxRecDepth 8000 in
    simp only [
        ↓reduceIte, ↓fast_pow.pow_L_2TAG_PACKET_1_0_2_1_sem, ha, ↓Machine.get_setx,
        ↓Machine.get_setg, ↓Machine.get_setstk, ↓Machine.get_enter, ↓Machine.get_setFlags,
        ↓Machine.trace_set, ↓Machine.get_ite, ↓Machine.trace_ite, ↓Machine.obs_eq_get,
        ↓Machine.flags_get, ↓Machine.flags_trace, ↓sem_get_1, ↓sem_get_2, ↓sem_get_3,
        ↓sem_get_4, ↓sem_trace_1, ↓sem_trace_2, ↓sem_trace_3, ↓sem_trace_4, ↓load_const,
        cc_iff, ea, and_imm, and_imm_left, ilog2_lit, or_eq_zero, or_mod32, or_lt_2p31,
        Nat.mod_mod, Nat.zero_or, Nat.or_zero, Nat.sub_zero, Nat.add_mod_right, lane_eq,
        Machine.io_eq_get, Nat.xor_self, Loc.x.injEq, Loc.g.injEq, Loc.m.injEq,
        Bool.toNat_eq_zero, Bool.toNat_eq_one, Nat.reducePow, Nat.reduceMul,
        Nat.reduceMod, Nat.reduceAdd, Nat.reduceSub, Nat.reduceDiv, Nat.reduceEqDiff,
        Nat.reduceLTLE, Nat.reduceLeDiff, Nat.reduceLT, Nat.reduceGT, Nat.reduceOr,
        Nat.reduceXor, reduceCtorEq, Bool.not_eq_true', Bool.not_eq_true,
        decide_eq_true_eq, decide_eq_false_iff_not, Bool.and_eq_true, Bool.or_eq_true,
        bne_iff_ne, beq_iff_eq, ne_eq, Bool.not_eq_false', Bool.not_eq_false, decide_not,
        not_not, Bool.decide_eq_true, Bool.false_eq_true, Bool.true_eq_false,
        not_false_eq_true, not_true_eq_false, and_true, true_and, and_false, false_and,
        or_true, true_or, or_false, false_or, not_true, not_false_iff, iff_self, true_iff,
        iff_true, false_iff, iff_false, ite_self, decide_eq_decide, decide_False,
        decide_True, Bool.not_true, Bool.not_false]
    all_goals omega
  have y1 : (fast_pow.L_2TAG_PACKET_1_0_2_1 cpu s).get (.m 16) = y := by
    set_option maxRecDepth 8000 in
    simp only [
        ↓reduceIte, ↓fast_pow.pow_L_2TAG_PACKET_1_0_2_1_sem, hy, ↓Machine.get_setx,
        ↓Machine.get_setg, ↓Machine.get_setstk, ↓Machine.get_enter, ↓Machine.get_setFlags,
        ↓Machine.trace_set, ↓Machine.get_ite, ↓Machine.trace_ite, ↓Machine.obs_eq_get,
        ↓Machine.flags_get, ↓Machine.flags_trace, ↓sem_get_1, ↓sem_get_2, ↓sem_get_3,
        ↓sem_get_4, ↓sem_trace_1, ↓sem_trace_2, ↓sem_trace_3, ↓sem_trace_4, ↓load_const,
        cc_iff, ea, and_imm, and_imm_left, ilog2_lit, or_eq_zero, or_mod32, or_lt_2p31,
        Nat.mod_mod, Nat.zero_or, Nat.or_zero, Nat.sub_zero, Nat.add_mod_right, lane_eq,
        Machine.io_eq_get, Nat.xor_self, Loc.x.injEq, Loc.g.injEq, Loc.m.injEq,
        Bool.toNat_eq_zero, Bool.toNat_eq_one, Nat.reducePow, Nat.reduceMul,
        Nat.reduceMod, Nat.reduceAdd, Nat.reduceSub, Nat.reduceDiv, Nat.reduceEqDiff,
        Nat.reduceLTLE, Nat.reduceLeDiff, Nat.reduceLT, Nat.reduceGT, Nat.reduceOr,
        Nat.reduceXor, reduceCtorEq, Bool.not_eq_true', Bool.not_eq_true,
        decide_eq_true_eq, decide_eq_false_iff_not, Bool.and_eq_true, Bool.or_eq_true,
        bne_iff_ne, beq_iff_eq, ne_eq, Bool.not_eq_false', Bool.not_eq_false, decide_not,
        not_not, Bool.decide_eq_true, Bool.false_eq_true, Bool.true_eq_false,
        not_false_eq_true, not_true_eq_false, and_true, true_and, and_false, false_and,
        or_true, true_or, or_false, false_or, not_true, not_false_iff, iff_self, true_iff,
        iff_true, false_iff, iff_false, ite_self, decide_eq_decide, decide_False,
        decide_True, Bool.not_true, Bool.not_false]
  have a2 : (fast_pow.L_2TAG_PACKET_1_0_2_2 cpu (fast_pow.L_2TAG_PACKET_1_0_2_1 cpu s)).get (.g eax) % 4294967296 = (E + 4294950929) % 4294967296 := by
    set_option maxRecDepth 8000 in
    simp only [
        ↓reduceIte, ↓fast_pow.pow_L_2TAG_PACKET_1_0_2_2_sem,
        ↓fast_pow.pow_L_2TAG_PACKET_1_0_2_1_sem, ha, ↓Machine.get_setx, ↓Machine.get_setg,
        ↓Machine.get_setstk, ↓Machine.get_enter, ↓Machine.get_setFlags,
        ↓Machine.trace_set, ↓Machine.get_ite, ↓Machine.trace_ite, ↓Machine.obs_eq_get,
        ↓Machine.flags_get, ↓Machine.flags_trace, ↓sem_get_1, ↓sem_get_2, ↓sem_get_3,
        ↓sem_get_4, ↓sem_trace_1, ↓sem_trace_2, ↓sem_trace_3, ↓sem_trace_4, ↓load_const,
        cc_iff, ea, and_imm, and_imm_left, ilog2_lit, or_eq_zero, or_mod32, or_lt_2p31,
        Nat.mod_mod, Nat.zero_or, Nat.or_zero, Nat.sub_zero, Nat.add_mod_right, lane_eq,
        Machine.io_eq_get, Nat.xor_self, Loc.x.injEq, Loc.g.injEq, Loc.m.injEq,
        Bool.toNat_eq_zero, Bool.toNat_eq_one, Nat.reducePow, Nat.reduceMul,
        Nat.reduceMod, Nat.reduceAdd, Nat.reduceSub, Nat.reduceDiv, Nat.reduceEqDiff,
        Nat.reduceLTLE, Nat.reduceLeDiff, Nat.reduceLT, Nat.reduceGT, Nat.reduceOr,
        Nat.reduceXor, reduceCtorEq, Bool.not_eq_true', Bool.not_eq_true,
        decide_eq_true_eq, decide_eq_false_iff_not, Bool.and_eq_true, Bool.or_eq_true,
        bne_iff_ne, beq_iff_eq, ne_eq, Bool.not_eq_false', Bool.not_eq_false, decide_not,
        not_not, Bool.decide_eq_true, Bool.false_eq_true, Bool.true_eq_false,
        not_false_eq_true, not_true_eq_false, and_true, true_and, and_false, false_and,
        or_true, true_or, or_false, false_or, not_true, not_false_iff, iff_self, true_iff,
        iff_true, false_iff, iff_false, ite_self, decide_eq_decide, decide_False,
        decide_True, Bool.not_true, Bool.not_false]
    all_goals omega
  have y2 : (fast_pow.L_2TAG_PACKET_1_0_2_2 cpu (fast_pow.L_2TAG_PACKET_1_0_2_1 cpu s)).get (.m 16) = y := by
    set_option maxRecDepth 8000 in
    simp only [
        ↓reduceIte, ↓fast_pow.pow_L_2TAG_PACKET_1_0_2_2_sem,
        ↓fast_pow.pow_L_2TAG_PACKET_1_0_2_1_sem, hy, ↓Machine.get_setx, ↓Machine.get_setg,
        ↓Machine.get_setstk, ↓Machine.get_enter, ↓Machine.get_setFlags,
        ↓Machine.trace_set, ↓Machine.get_ite, ↓Machine.trace_ite, ↓Machine.obs_eq_get,
        ↓Machine.flags_get, ↓Machine.flags_trace, ↓sem_get_1, ↓sem_get_2, ↓sem_get_3,
        ↓sem_get_4, ↓sem_trace_1, ↓sem_trace_2, ↓sem_trace_3, ↓sem_trace_4, ↓load_const,
        cc_iff, ea, and_imm, and_imm_left, ilog2_lit, or_eq_zero, or_mod32, or_lt_2p31,
        Nat.mod_mod, Nat.zero_or, Nat.or_zero, Nat.sub_zero, Nat.add_mod_right, lane_eq,
        Machine.io_eq_get, Nat.xor_self, Loc.x.injEq, Loc.g.injEq, Loc.m.injEq,
        Bool.toNat_eq_zero, Bool.toNat_eq_one, Nat.reducePow, Nat.reduceMul,
        Nat.reduceMod, Nat.reduceAdd, Nat.reduceSub, Nat.reduceDiv, Nat.reduceEqDiff,
        Nat.reduceLTLE, Nat.reduceLeDiff, Nat.reduceLT, Nat.reduceGT, Nat.reduceOr,
        Nat.reduceXor, reduceCtorEq, Bool.not_eq_true', Bool.not_eq_true,
        decide_eq_true_eq, decide_eq_false_iff_not, Bool.and_eq_true, Bool.or_eq_true,
        bne_iff_ne, beq_iff_eq, ne_eq, Bool.not_eq_false', Bool.not_eq_false, decide_not,
        not_not, Bool.decide_eq_true, Bool.false_eq_true, Bool.true_eq_false,
        not_false_eq_true, not_true_eq_false, and_true, true_and, and_false, false_and,
        or_true, true_or, or_false, false_or, not_true, not_false_iff, iff_self, true_iff,
        iff_true, false_iff, iff_false, ite_self, decide_eq_decide, decide_False,
        decide_True, Bool.not_true, Bool.not_false]
  have t1 : (fast_pow.L_2TAG_PACKET_1_0_2_1 cpu s).trace = Label.L_2TAG_PACKET_1_0_2 :: s.trace := by
    rw [fast_pow.pow_L_2TAG_PACKET_1_0_2_1_trace]
  have t2 : (fast_pow.L_2TAG_PACKET_1_0_2_2 cpu (fast_pow.L_2TAG_PACKET_1_0_2_1 cpu s)).trace = Label.L_2TAG_PACKET_1_0_2 :: s.trace := by
    rw [fast_pow.pow_L_2TAG_PACKET_1_0_2_2_trace, fast_pow.pow_L_2TAG_PACKET_1_0_2_1_trace]
  rw [fast_pow.pow_L_2TAG_PACKET_1_0_2_eq]
  by_cases hb : cc_belowEqual (fast_pow.L_2TAG_PACKET_1_0_2_1 cpu s) = true
  · rw [if_pos hb]
    have hE := hc.1 hb
    obtain ⟨r1, r2⟩ := pow_L2_main cpu (fast_pow.L_2TAG_PACKET_1_0_2_1 cpu s) E y hE1 hE2 a1 y1
    constructor
    · intro h
      exact reach_step cpu _ s _ _ _ _ (r1 (by omega)) t1 (by decide) (by decide)
    · intro h
      exact avoid_step _ s _ _ (r2 (by omega)) t1 (by decide)
  · rw [if_neg hb]
    have hE : ¬ (E = 16367 ∨ E = 16368) := fun h => hb (hc.2 h)
    constructor
    · intro _
      exact reach_step cpu _ s _ _ _ _ (pow_L3_main cpu (fast_pow.L_2TAG_PACKET_1_0_2_2 cpu (fast_pow.L_2TAG_PACKET_1_0_2_1 cpu s)) E y hE1 hE2 a2 y2)
        t2 (by decide) (by decide)
    · intro h
      exact absurd (Or.inl ⟨fun e => hE (Or.inl e), fun e => hE (Or.inr e)⟩) h

/-- The product of a non-zero subnormal number and `2^128` is normal, with the position of
the leading mantissa bit plus 77 as exponent field. -/
theorem f64Mul_scale_subnormal (x : Nat) (he : f64Exp x = 0) (hm : f64Man x ≠ 0) :
    f64Exp (f64Mul x 0x47F0000000000000) = ilog2 (f64Man x) + 77 := by
  have c1 : f64IsNaN x = false := by
    simp [f64IsNaN, he]
  have c2 : f64IsInf x = false := by
    simp [f64IsInf, he]
  have hs : f64Sign x ≤ 1 := by
    simp only [f64Sign]
    omega
  have hm2 : f64Man x < 2 ^ 52 := by
    simp only [f64Man]
    exact Nat.mod_lt _ (by decide)
  have hx : f64Man x < 2 ^ (2 ^ 12) := Nat.lt_of_lt_of_le hm2 (by decide!)
  obtain ⟨a, b⟩ := ilog2Aux_spec 12 (f64Man x) (Nat.pos_of_ne_zero hm) hx
  have hn : ilog2 (f64Man x) = ilog2Aux 12 (f64Man x) := rfl
  rw [hn]
  generalize ilog2Aux 12 (f64Man x) = n at a b
  have hn52 : n < 52 := (Nat.pow_lt_pow_iff_right (by decide : 1 < 2)).1 (Nat.lt_of_le_of_lt a hm2)
  have e52 : (2 : Nat) ^ 52 = 2 ^ n * 2 ^ (52 - n) := by
    have e : n + (52 - n) = 52 := by omega
    rw [← Nat.pow_add, e]
  have e53 : (2 : Nat) ^ 53 = 2 ^ (n + 1) * 2 ^ (52 - n) := by
    have e : n + 1 + (52 - n) = 53 := by omega
    rw [← Nat.pow_add, e]
  have m1 : 2 ^ 52 ≤ f64Man x * 2 ^ (52 - n) := by
    rw [e52]
    exact Nat.mul_le_mul_right _ a
  have m2 : f64Man x * 2 ^ (52 - n) < 2 ^ 53 := by
    rw [e53]
    exact Nat.mul_lt_mul_of_pos_right b (Nat.two_pow_pos _)
  have s1 : 2 ^ (n + 52) ≤ f64Man x * 2 ^ 52 := by
    rw [Nat.pow_add]
    exact Nat.mul_le_mul_right _ a
  have s2 : f64Man x * 2 ^ 52 < 2 ^ (n + 52 + 1) := by
    have e : n + 52 + 1 = (n + 1) + 52 := by omega
    rw [e, Nat.pow_add]
    exact Nat.mul_lt_mul_of_pos_right b (Nat.two_pow_pos _)
  have hsplit : f64Man x * 2 ^ 52 = f64Man x * 2 ^ (52 - n) * 2 ^ n + 0 := by
    have e : 52 - n + n = 52 := by omega
    rw [Nat.add_zero, Nat.mul_assoc, ← Nat.pow_add, e]
  have hmant : (if n + 3002 ≤ 3002 then f64Man x * 2 ^ 52 * 2 ^ (3002 - (n + 3002))
      else rne (f64Man x * 2 ^ 52) (n + 3002 - 3002)) = f64Man x * 2 ^ (52 - n) := by
    rcases Nat.eq_zero_or_pos n with h0 | h0
    · subst h0
      simp
    · rw [if_neg (by omega)]
      have e : n + 3002 - 3002 = n := by omega
      rw [e, rne_eq _ n _ 0 hsplit (Nat.two_pow_pos n) h0, if_neg]
      have := Nat.two_pow_pos (n - 1)
      omega
  have h := roundPack_of ((f64Sign x + 0) % 2) (f64Man x * 2 ^ 52) 3002 (n + 52) (n + 3002)
    (f64Man x * 2 ^ (52 - n)) s1 s2 (by omega) (by omega) hmant
    (by
      simp only [Nat.reducePow] at m2 ⊢
      omega)
  have d1 : f64Sign 0x47F0000000000000 = 0 := by decide
  have d2 : f64IsNaN 0x47F0000000000000 = false := by decide
  have d3 : f64IsInf 0x47F0000000000000 = false := by decide
  have d4 : f64Sig 0x47F0000000000000 = 2 ^ 52 := by decide
  have d5 : f64E 0x47F0000000000000 = 1151 := by decide
  have g1 : f64Sig x = f64Man x := by
    simp only [f64Sig, he, if_true]
  have g2 : f64E x = 1 := by
    simp only [f64E, he, if_true]
  unfold f64Mul
  simp only [c1, c2, d1, d2, d3, d4, d5, g1, g2, Bool.false_eq_true, if_false, or_self,
    Nat.reduceAdd]
  rw [h]
  have e2 : n + 3002 - 2926 = n + 76 := by omega
  rw [e2]
  simp only [Nat.reducePow] at m1 m2 ⊢
  generalize f64Man x * 2 ^ (52 - n) = M at m1 m2
  have hs2 : (f64Sign x + 0) % 2 ≤ 1 := by omega
  generalize (f64Sign x + 0) % 2 = sg at hs2
  simp only [f64Exp, Nat.reducePow]
  omega

theorem ilog2_man_lt (x : Nat) (hm : f64Man x ≠ 0) : ilog2 (f64Man x) < 52 := by
  have hm2 : f64Man x < 2 ^ 52 := by
    simp only [f64Man]
    exact Nat.mod_lt _ (by decide)
  have hx : f64Man x < 2 ^ (2 ^ 12) := Nat.lt_of_lt_of_le hm2 (by decide!)
  obtain ⟨a, -⟩ := ilog2Aux_spec 12 (f64Man x) (Nat.pos_of_ne_zero hm) hx
  exact (Nat.pow_lt_pow_iff_right (by decide : 1 < 2)).1 (Nat.lt_of_le_of_lt a hm2)

/-- From `L_2TAG_PACKET_8_0_2`, entered with a subnormal base in its stack slot, the run
enters `L_2TAG_PACKET_4_0_2` with the exponent of the base in `eax`; for a zero base it never
enters `L_2TAG_PACKET_4_0_2`. -/
theorem pow_L8_main (cpu : Cpu) (s : Machine) (x y : Nat) (hx : s.get (.m 8) = x)
    (hx64 : x < 18446744073709551616) (he : x / 4503599627370496 % 2048 = 0)
    (hy : s.get (.m 16) = y) :
    (x % 9223372036854775808 ≠ 0 →
      fast_pow.ReachesMain cpu (fast_pow.L_2TAG_PACKET_8_0_2 cpu s) s (f64Ilogb x) y) ∧
    (x = 0 → fast_pow.AvoidsMain (fast_pow.L_2TAG_PACKET_8_0_2 cpu s) s) := by
  have hc : cc_equal (fast_pow.L_2TAG_PACKET_8_0_2_1 cpu s) = true ↔ x = 0 := by
    set_option maxRecDepth 8000 in
    simp only [
        ↓reduceIte, ↓fast_pow.pow_L_2TAG_PACKET_8_0_2_1_sem, hx, ↓Machine.get_setx,
        ↓Machine.get_setg, ↓Machine.get_setstk, ↓Machine.get_enter, ↓Machine.get_setFlags,
        ↓Machine.trace_set, ↓Machine.get_ite, ↓Machine.trace_ite, ↓Machine.obs_eq_get,
        ↓Machine.flags_get, ↓Machine.flags_trace, ↓sem_get_1, ↓sem_get_2, ↓sem_get_3,
        ↓sem_get_4, ↓sem_trace_1, ↓sem_trace_2, ↓sem_trace_3, ↓sem_trace_4, ↓load_const,
        cc_iff, ea, and_imm, and_imm_left, ilog2_lit, or_eq_zero, or_mod32, or_lt_2p31,
        Nat.mod_mod, Nat.zero_or, Nat.or_zero, Nat.sub_zero, Nat.add_mod_right, lane_eq,
        Machine.io_eq_get, Nat.xor_self, Loc.x.injEq, Loc.g.injEq, Loc.m.injEq,
        Bool.toNat_eq_zero, Bool.toNat_eq_one, Nat.reducePow, Nat.reduceMul,
        Nat.reduceMod, Nat.reduceAdd, Nat.reduceSub, Nat.reduceDiv, Nat.reduceEqDiff,
        Nat.reduceLTLE, Nat.reduceLeDiff, Nat.reduceLT, Nat.reduceGT, Nat.reduceOr,
        Nat.reduceXor, reduceCtorEq, Bool.not_eq_true', Bool.not_eq_true,
        decide_eq_true_eq, decide_eq_false_iff_not, Bool.and_eq_true, Bool.or_eq_true,
        bne_iff_ne, beq_iff_eq, ne_eq, Bool.not_eq_false', Bool.not_eq_false, decide_not,
        not_not, Bool.decide_eq_true, Bool.false_eq_true, Bool.true_eq_false,
        not_false_eq_true, not_true_eq_false, and_true, true_and, and_false, false_and,
        or_true, true_or, or_false, false_or, not_true, not_false_iff, iff_self, true_iff,
        iff_true, false_iff, iff_false, ite_self, decide_eq_decide, decide_False,
        decide_True, Bool.not_true, Bool.not_false]
    all_goals omega
  have t1 : (fast_pow.L_2TAG_PACKET_8_0_2_1 cpu s).trace = Label.L_2TAG_PACKET_8_0_2 :: s.trace := by
    rw [fast_pow.pow_L_2TAG_PACKET_8_0_2_1_trace]
  have t2 : (fast_pow.L_2TAG_PACKET_8_0_2_2 cpu (fast_pow.L_2TAG_PACKET_8_0_2_1 cpu s)).trace = Label.L_2TAG_PACKET_8_0_2 :: s.trace := by
    rw [fast_pow.pow_L_2TAG_PACKET_8_0_2_2_trace, fast_pow.pow_L_2TAG_PACKET_8_0_2_1_trace]
  rw [fast_pow.pow_L_2TAG_PACKET_8_0_2_eq]
  constructor
  · intro hnz
    rw [if_neg (fun h => hnz (by rw [hc.1 h]))]
    have he' : f64Exp x = 0 := by
      simp only [f64Exp, Nat.reducePow]
      exact he
    have hm' : f64Man x ≠ 0 := by
      simp only [f64Man, Nat.reducePow]
      omega
    have hsc := f64Mul_scale_subnormal x he' hm'
    have hn := ilog2_man_lt x hm'
    refine ⟨(fast_pow.L_2TAG_PACKET_8_0_2_2 cpu (fast_pow.L_2TAG_PACKET_8_0_2_1 cpu s)), [Label.L_2TAG_PACKET_8_0_2], rfl, by rw [t2]; rfl, by decide,
      by decide, ?_, ?_⟩
    · set_option maxRecDepth 8000 in
      simp only [
          ↓reduceIte, ↓fast_pow.pow_L_2TAG_PACKET_8_0_2_2_sem,
          ↓fast_pow.pow_L_2TAG_PACKET_8_0_2_1_sem, hy, ↓Machine.get_setx,
          ↓Machine.get_setg, ↓Machine.get_setstk, ↓Machine.get_enter,
          ↓Machine.get_setFlags, ↓Machine.trace_set, ↓Machine.get_ite,
          ↓Machine.trace_ite, ↓Machine.obs_eq_get, ↓Machine.flags_get,
          ↓Machine.flags_trace, ↓sem_get_1, ↓sem_get_2, ↓sem_get_3, ↓sem_get_4,
          ↓sem_trace_1, ↓sem_trace_2, ↓sem_trace_3, ↓sem_trace_4, ↓load_const, cc_iff,
          ea, and_imm, and_imm_left, ilog2_lit, or_eq_zero, or_mod32, or_lt_2p31,
          Nat.mod_mod, Nat.zero_or, Nat.or_zero, Nat.sub_zero, Nat.add_mod_right,
          lane_eq, Machine.io_eq_get, Nat.xor_self, Loc.x.injEq, Loc.g.injEq,
          Loc.m.injEq, Bool.toNat_eq_zero, Bool.toNat_eq_one, Nat.reducePow,
          Nat.reduceMul, Nat.reduceMod, Nat.reduceAdd, Nat.reduceSub, Nat.reduceDiv,
          Nat.reduceEqDiff, Nat.reduceLTLE, Nat.reduceLeDiff, Nat.reduceLT,
          Nat.reduceGT, Nat.reduceOr, Nat.reduceXor, reduceCtorEq, Bool.not_eq_true',
          Bool.not_eq_true, decide_eq_true_eq, decide_eq_false_iff_not,
          Bool.and_eq_true, Bool.or_eq_true, bne_iff_ne, beq_iff_eq, ne_eq,
          Bool.not_eq_false', Bool.not_eq_false, decide_not, not_not,
          Bool.decide_eq_true, Bool.false_eq_true, Bool.true_eq_false,
          not_false_eq_true, not_true_eq_false, and_true, true_and, and_false,
          false_and, or_true, true_or, or_false, false_or, not_true, not_false_iff,
          iff_self, true_iff, iff_true, false_iff, iff_false, ite_self,
          decide_eq_decide, decide_False, decide_True, Bool.not_true, Bool.not_false]
    · simp only [f64Ilogb, he', if_true, toInt32]
      simp only [f64Exp, Nat.reducePow] at hsc
      have hP := f64Mul_lt x 5183643171103440896 hx64 (by decide)
      set_option maxRecDepth 8000 in
      simp only [
          ↓reduceIte, ↓fast_pow.pow_L_2TAG_PACKET_8_0_2_2_sem,
          ↓fast_pow.pow_L_2TAG_PACKET_8_0_2_1_sem, hx, Nat.mod_eq_of_lt hx64,
          Nat.div_eq_of_lt hx64, Nat.zero_mod, Nat.mul_zero, Nat.add_zero,
          ↓Machine.get_setx, ↓Machine.get_setg, ↓Machine.get_setstk, ↓Machine.get_enter,
          ↓Machine.get_setFlags, ↓Machine.trace_set, ↓Machine.get_ite,
          ↓Machine.trace_ite, ↓Machine.obs_eq_get, ↓Machine.flags_get,
          ↓Machine.flags_trace, ↓sem_get_1, ↓sem_get_2, ↓sem_get_3, ↓sem_get_4,
          ↓sem_trace_1, ↓sem_trace_2, ↓sem_trace_3, ↓sem_trace_4, ↓load_const, cc_iff,
          ea, and_imm, and_imm_left, ilog2_lit, or_eq_zero, or_mod32, or_lt_2p31,
          Nat.mod_mod, Nat.zero_or, Nat.or_zero, Nat.sub_zero, Nat.add_mod_right,
          lane_eq, Machine.io_eq_get, Nat.xor_self, Loc.x.injEq, Loc.g.injEq,
          Loc.m.injEq, Bool.toNat_eq_zero, Bool.toNat_eq_one, Nat.reducePow,
          Nat.reduceMul, Nat.reduceMod, Nat.reduceAdd, Nat.reduceSub, Nat.reduceDiv,
          Nat.reduceEqDiff, Nat.reduceLTLE, Nat.reduceLeDiff, Nat.reduceLT,
          Nat.reduceGT, Nat.reduceOr, Nat.reduceXor, reduceCtorEq, Bool.not_eq_true',
          Bool.not_eq_true, decide_eq_true_eq, decide_eq_false_iff_not,
          Bool.and_eq_true, Bool.or_eq_true, bne_iff_ne, beq_iff_eq, ne_eq,
          Bool.not_eq_false', Bool.not_eq_false, decide_not, not_not,
          Bool.decide_eq_true, Bool.false_eq_true, Bool.true_eq_false,
          not_false_eq_true, not_true_eq_false, and_true, true_and, and_false,
          false_and, or_true, true_or, or_false, false_or, not_true, not_false_iff,
          iff_self, true_iff, iff_true, false_iff, iff_false, ite_self,
          decide_eq_decide, decide_False, decide_True, Bool.not_true, Bool.not_false]
      generalize f64Mul x 5183643171103440896 = P at hP hsc ⊢
      generalize ilog2 (f64Man x) = n at hn hsc ⊢
      split_ifs <;> omega
  · intro h0
    rw [if_pos (hc.2 h0)]
    exact avoid_step _ s _ _ (avoid_of_descends _ _ _ _
      (fast_pow.pow_L_2TAG_PACKET_9_0_2_descends _ pow_rank_main cpu _) (by decide)) t1
      (by decide)

/-- From `L_2TAG_PACKET_10_0_2`, entered with a subnormal base in its stack slot, the run
enters `L_2TAG_PACKET_4_0_2` with the exponent of the base in `eax`; for a zero base it never
enters `L_2TAG_PACKET_4_0_2`. -/
theorem pow_L10_main (cpu : Cpu) (s : Machine) (x y : Nat) (hx : s.get (.m 8) = x)
    (hx64 : x < 18446744073709551616) (he : x / 4503599627370496 % 2048 = 0)
    (hy : s.get (.m 16) = y) :
    (x % 9223372036854775808 ≠ 0 →
      fast_pow.ReachesMain cpu (fast_pow.L_2TAG_PACKET_10_0_2 cpu s) s (f64Ilogb x) y) ∧
    (x = 0 → fast_pow.AvoidsMain (fast_pow.L_2TAG_PACKET_10_0_2 cpu s) s) := by
  have hc : cc_equal (fast_pow.L_2TAG_PACKET_10_0_2_1 cpu s) = true ↔ x = 0 := by
    set_option maxRecDepth 8000 in
    simp only [
        ↓reduceIte, ↓fast_pow.pow_L_2TAG_PACKET_10_0_2_1_sem, hx, ↓Machine.get_setx,
        ↓Machine.get_setg, ↓Machine.get_setstk, ↓Machine.get_enter, ↓Machine.get_setFlags,
        ↓Machine.trace_set, ↓Machine.get_ite, ↓Machine.trace_ite, ↓Machine.obs_eq_get,
        ↓Machine.flags_get, ↓Machine.flags_trace, ↓sem_get_1, ↓sem_get_2, ↓sem_get_3,
        ↓sem_get_4, ↓sem_trace_1, ↓sem_trace_2, ↓sem_trace_3, ↓sem_trace_4, ↓load_const,
        cc_iff, ea, and_imm, and_imm_left, ilog2_lit, or_eq_zero, or_mod32, or_lt_2p31,
        Nat.mod_mod, Nat.zero_or, Nat.or_zero, Nat.sub_zero, Nat.add_mod_right, lane_eq,
        Machine.io_eq_get, Nat.xor_self, Loc.x.injEq, Loc.g.injEq, Loc.m.injEq,
        Bool.toNat_eq_zero, Bool.toNat_eq_one, Nat.reducePow, Nat.reduceMul,
        Nat.reduceMod, Nat.reduceAdd, Nat.reduceSub, Nat.reduceDiv, Nat.reduceEqDiff,
        Nat.reduceLTLE, Nat.reduceLeDiff, Nat.reduceLT, Nat.reduceGT, Nat.reduceOr,
        Nat.reduceXor, reduceCtorEq, Bool.not_eq_true', Bool.not_eq_true,
        decide_eq_true_eq, decide_eq_false_iff_not, Bool.and_eq_true, Bool.or_eq_true,
        bne_iff_ne, beq_iff_eq, ne_eq, Bool.not_eq_false', Bool.not_eq_false, decide_not,
        not_not, Bool.decide_eq_true, Bool.false_eq_true, Bool.true_eq_false,
        not_false_eq_true, not_true_eq_false, and_true, true_and, and_false, false_and,
        or_true, true_or, or_false, false_or, not_true, not_false_iff, iff_self, true_iff,
        iff_true, false_iff, iff_false, ite_self, decide_eq_decide, decide_False,
        decide_True, Bool.not_true, Bool.not_false]
    all_goals omega
  have t1 : (fast_pow.L_2TAG_PACKET_10_0_2_1 cpu s).trace = Label.L_2TAG_PACKET_10_0_2 :: s.trace := by
    rw [fast_pow.pow_L_2TAG_PACKET_10_0_2_1_trace]
  have t2 : (fast_pow.L_2TAG_PACKET_10_0_2_2 cpu (fast_pow.L_2TAG_PACKET_10_0_2_1 cpu s)).trace = Label.L_2TAG_PACKET_10_0_2 :: s.trace := by
    rw [fast_pow.pow_L_2TAG_PACKET_10_0_2_2_trace, fast_pow.pow_L_2TAG_PACKET_10_0_2_1_trace]
  rw [fast_pow.pow_L_2TAG_PACKET_10_0_2_eq]
  constructor
  · intro hnz
    rw [if_neg (fun h => hnz (by rw [hc.1 h]))]
    have he' : f64Exp x = 0 := by
      simp only [f64Exp, Nat.reducePow]
      exact he
    have hm' : f64Man x ≠ 0 := by
      simp only [f64Man, Nat.reducePow]
      omega
    have hsc := f64Mul_scale_subnormal x he' hm'
    have hn := ilog2_man_lt x hm'
    refine ⟨(fast_pow.L_2TAG_PACKET_10_0_2_2 cpu (fast_pow.L_2TAG_PACKET_10_0_2_1 cpu s)), [Label.L_2TAG_PACKET_10_0_2], rfl, by rw [t2]; rfl, by decide,
      by decide, ?_, ?_⟩
    · set_option maxRecDepth 8000 in
      simp only [
          ↓reduceIte, ↓fast_pow.pow_L_2TAG_PACKET_10_0_2_2_sem,
          ↓fast_pow.pow_L_2TAG_PACKET_10_0_2_1_sem, hy, ↓Machine.get_setx,
          ↓Machine.get_setg, ↓Machine.get_setstk, ↓Machine.get_enter,
          ↓Machine.get_setFlags, ↓Machine.trace_set, ↓Machine.get_ite,
          ↓Machine.trace_ite, ↓Machine.obs_eq_get, ↓Machine.flags_get,
          ↓Machine.flags_trace, ↓sem_get_1, ↓sem_get_2, ↓sem_get_3, ↓sem_get_4,
          ↓sem_trace_1, ↓sem_trace_2, ↓sem_trace_3, ↓sem_trace_4, ↓load_const, cc_iff,
          ea, and_imm, and_imm_left, ilog2_lit, or_eq_zero, or_mod32, or_lt_2p31,
          Nat.mod_mod, Nat.zero_or, Nat.or_zero, Nat.sub_zero, Nat.add_mod_right,
          lane_eq, Machine.io_eq_get, Nat.xor_self, Loc.x.injEq, Loc.g.injEq,
          Loc.m.injEq, Bool.toNat_eq_zero, Bool.toNat_eq_one, Nat.reducePow,
          Nat.reduceMul, Nat.reduceMod, Nat.reduceAdd, Nat.reduceSub, Nat.reduceDiv,
          Nat.reduceEqDiff, Nat.reduceLTLE, Nat.reduceLeDiff, Nat.reduceLT,
          Nat.reduceGT, Nat.reduceOr, Nat.reduceXor, reduceCtorEq, Bool.not_eq_true',
          Bool.not_eq_true, decide_eq_true_eq, decide_eq_false_iff_not,
          Bool.and_eq_true, Bool.or_eq_true, bne_iff_ne, beq_iff_eq, ne_eq,
          Bool.not_eq_false', Bool.not_eq_false, decide_not, not_not,
          Bool.decide_eq_true, Bool.false_eq_true, Bool.true_eq_false,
          not_false_eq_true, not_true_eq_false, and_true, true_and, and_false,
          false_and, or_true, true_or, or_false, false_or, not_true, not_false_iff,
          iff_self, true_iff, iff_true, false_iff, iff_false, ite_self,
          decide_eq_decide, decide_False, decide_True, Bool.not_true, Bool.not_false]
    · simp only [f64Ilogb, he', if_true, toInt32]
      simp only [f64Exp, Nat.reducePow] at hsc
      have hP := f64Mul_lt x 5183643171103440896 hx64 (by decide)
      set_option maxRecDepth 8000 in
      simp only [
          ↓reduceIte, ↓fast_pow.pow_L_2TAG_PACKET_10_0_2_2_sem,
          ↓fast_pow.pow_L_2TAG_PACKET_10_0_2_1_sem, hx, Nat.mod_eq_of_lt hx64,
          Nat.div_eq_of_lt hx64, Nat.zero_mod, Nat.mul_zero, Nat.add_zero,
          ↓Machine.get_setx, ↓Machine.get_setg, ↓Machine.get_setstk, ↓Machine.get_enter,
          ↓Machine.get_setFlags, ↓Machine.trace_set, ↓Machine.get_ite,
          ↓Machine.trace_ite, ↓Machine.obs_eq_get, ↓Machine.flags_get,
          ↓Machine.flags_trace, ↓sem_get_1, ↓sem_get_2, ↓sem_get_3, ↓sem_get_4,
          ↓sem_trace_1, ↓sem_trace_2, ↓sem_trace_3, ↓sem_trace_4, ↓load_const, cc_iff,
          ea, and_imm, and_imm_left, ilog2_lit, or_eq_zero, or_mod32, or_lt_2p31,
          Nat.mod_mod, Nat.zero_or, Nat.or_zero, Nat.sub_zero, Nat.add_mod_right,
          lane_eq, Machine.io_eq_get, Nat.xor_self, Loc.x.injEq, Loc.g.injEq,
          Loc.m.injEq, Bool.toNat_eq_zero, Bool.toNat_eq_one, Nat.reducePow,
          Nat.reduceMul, Nat.reduceMod, Nat.reduceAdd, Nat.reduceSub, Nat.reduceDiv,
          Nat.reduceEqDiff, Nat.reduceLTLE, Nat.reduceLeDiff, Nat.reduceLT,
          Nat.reduceGT, Nat.reduceOr, Nat.reduceXor, reduceCtorEq, Bool.not_eq_true',
          Bool.not_eq_true, decide_eq_true_eq, decide_eq_false_iff_not,
          Bool.and_eq_true, Bool.or_eq_true, bne_iff_ne, beq_iff_eq, ne_eq,
          Bool.not_eq_false', Bool.not_eq_false, decide_not, not_not,
          Bool.decide_eq_true, Bool.false_eq_true, Bool.true_eq_false,
          not_false_eq_true, not_true_eq_false, and_true, true_and, and_false,
          false_and, or_true, true_or, or_false, false_or, not_true, not_false_iff,
          iff_self, true_iff, iff_true, false_iff, iff_false, ite_self,
          decide_eq_decide, decide_False, decide_True, Bool.not_true, Bool.not_false]
      generalize f64Mul x 5183643171103440896 = P at hP hsc ⊢
      generalize ilog2 (f64Man x) = n at hn hsc ⊢
      split_ifs <;> omega
  · intro h0
    rw [if_pos (hc.2 h0)]
    exact avoid_step _ s _ _ (avoid_of_descends _ _ _ _
      (fast_pow.pow_L_2TAG_PACKET_9_0_2_descends _ pow_rank_main cpu _) (by decide)) t1
      (by decide)

theorem f64Ilogb_normal (x : Nat) (h : 16 ≤ x / 281474976710656 % 32768) :
    f64Ilogb x = ((x / 281474976710656 % 32768 / 16 : Nat) : Int) - 1023 := by
  have e : x / 4503599627370496 % 2048 = x / 281474976710656 % 32768 / 16 := by omega
  simp only [f64Ilogb, f64Exp, Nat.reducePow]
  rw [if_neg (by omega), e]

/-- From `L_2TAG_PACKET_35_0_2`, entered with a finite non-zero base in its stack slot: the run
enters `L_2TAG_PACKET_4_0_2` with the exponent of the base in `eax`, unless the base is near
one (top 15 bits of `|x|` 16367 or 16368) and the exponent field of `y` is at least 1035. -/
theorem pow_L35_main (cpu : Cpu) (s : Machine) (x y : Nat) (hx : s.get (.m 8) = x)
    (hx64 : x < 18446744073709551616) (hfin : x / 4503599627370496 % 2048 < 2047)
    (hnz : x % 9223372036854775808 ≠ 0) (hy : s.get (.m 16) = y) :
    (((x / 281474976710656 % 32768 ≠ 16367 ∧ x / 281474976710656 % 32768 ≠ 16368) ∨
        y / 2 ^ 52 % 2048 < 1035) →
      fast_pow.ReachesMain cpu (fast_pow.L_2TAG_PACKET_35_0_2 cpu s) s (f64Ilogb x) y) ∧
    (¬ ((x / 281474976710656 % 32768 ≠ 16367 ∧ x / 281474976710656 % 32768 ≠ 16368) ∨
        y / 2 ^ 52 % 2048 < 1035) →
      fast_pow.AvoidsMain (fast_pow.L_2TAG_PACKET_35_0_2 cpu s) s) := by
  have hc : cc_less (fast_pow.L_2TAG_PACKET_35_0_2_1 cpu s) = true ↔ x / 281474976710656 % 32768 < 16 := by
    set_option maxRecDepth 8000 in
    simp only [
        ↓reduceIte, ↓fast_pow.pow_L_2TAG_PACKET_35_0_2_1_sem, hx, ↓Machine.get_setx,
        ↓Machine.get_setg, ↓Machine.get_setstk, ↓Machine.get_enter, ↓Machine.get_setFlags,
        ↓Machine.trace_set, ↓Machine.get_ite, ↓Machine.trace_ite, ↓Machine.obs_eq_get,
        ↓Machine.flags_get, ↓Machine.flags_trace, ↓sem_get_1, ↓sem_get_2, ↓sem_get_3,
        ↓sem_get_4, ↓sem_trace_1, ↓sem_trace_2, ↓sem_trace_3, ↓sem_trace_4, ↓load_const,
        cc_iff, ea, and_imm, and_imm_left, ilog2_lit, or_eq_zero, or_mod32, or_lt_2p31,
        Nat.mod_mod, Nat.zero_or, Nat.or_zero, Nat.sub_zero, Nat.add_mod_right, lane_eq,
        Machine.io_eq_get, Nat.xor_self, Loc.x.injEq, Loc.g.injEq, Loc.m.injEq,
        Bool.toNat_eq_zero, Bool.toNat_eq_one, Nat.reducePow, Nat.reduceMul,
        Nat.reduceMod, Nat.reduceAdd, Nat.reduceSub, Nat.reduceDiv, Nat.reduceEqDiff,
        Nat.reduceLTLE, Nat.reduceLeDiff, Nat.reduceLT, Nat.reduceGT, Nat.reduceOr,
        Nat.reduceXor, reduceCtorEq, Bool.not_eq_true', Bool.not_eq_true,
        decide_eq_true_eq, decide_eq_false_iff_not, Bool.and_eq_true, Bool.or_eq_true,
        bne_iff_ne, beq_iff_eq, ne_eq, Bool.not_eq_false', Bool.not_eq_false, decide_not,
        not_not, Bool.decide_eq_true, Bool.false_eq_true, Bool.true_eq_false,
        not_false_eq_true, not_true_eq_false, and_true, true_and, and_false, false_and,
        or_true, true_or, or_false, false_or, not_true, not_false_iff, iff_self, true_iff,
        iff_true, false_iff, iff_false, ite_self, decide_eq_decide, decide_False,
        decide_True, Bool.not_true, Bool.not_false]
    all_goals omega
  have t1 : (fast_pow.L_2TAG_PACKET_35_0_2_1 cpu s).trace = Label.L_2TAG_PACKET_35_0_2 :: s.trace := by
    rw [fast_pow.pow_L_2TAG_PACKET_35_0_2_1_trace]
  have t2 : (fast_pow.L_2TAG_PACKET_35_0_2_2 cpu (fast_pow.L_2TAG_PACKET_35_0_2_1 cpu s)).trace = Label.L_2TAG_PACKET_35_0_2 :: s.trace := by
    rw [fast_pow.pow_L_2TAG_PACKET_35_0_2_2_trace, fast_pow.pow_L_2TAG_PACKET_35_0_2_1_trace]
  rw [fast_pow.pow_L_2TAG_PACKET_35_0_2_eq]
  by_cases hb : cc_less (fast_pow.L_2TAG_PACKET_35_0_2_1 cpu s) = true
  · rw [if_pos hb]
    have hE := hc.1 hb
    have x1 : (fast_pow.L_2TAG_PACKET_35_0_2_1 cpu s).get (.m 8) = x := by
      set_option maxRecDepth 8000 in
      simp only [
          ↓reduceIte, ↓fast_pow.pow_L_2TAG_PACKET_35_0_2_1_sem, hx, ↓Machine.get_setx,
          ↓Machine.get_setg, ↓Machine.get_setstk, ↓Machine.get_enter,
          ↓Machine.get_setFlags, ↓Machine.trace_set, ↓Machine.get_ite,
          ↓Machine.trace_ite, ↓Machine.obs_eq_get, ↓Machine.flags_get,
          ↓Machine.flags_trace, ↓sem_get_1, ↓sem_get_2, ↓sem_get_3, ↓sem_get_4,
          ↓sem_trace_1, ↓sem_trace_2, ↓sem_trace_3, ↓sem_trace_4, ↓load_const, cc_iff,
          ea, and_imm, and_imm_left, ilog2_lit, or_eq_zero, or_mod32, or_lt_2p31,
          Nat.mod_mod, Nat.zero_or, Nat.or_zero, Nat.sub_zero, Nat.add_mod_right,
          lane_eq, Machine.io_eq_get, Nat.xor_self, Loc.x.injEq, Loc.g.injEq,
          Loc.m.injEq, Bool.toNat_eq_zero, Bool.toNat_eq_one, Nat.reducePow,
          Nat.reduceMul, Nat.reduceMod, Nat.reduceAdd, Nat.reduceSub, Nat.reduceDiv,
          Nat.reduceEqDiff, Nat.reduceLTLE, Nat.reduceLeDiff, Nat.reduceLT,
          Nat.reduceGT, Nat.reduceOr, Nat.reduceXor, reduceCtorEq, Bool.not_eq_true',
          Bool.not_eq_true, decide_eq_true_eq, decide_eq_false_iff_not,
          Bool.and_eq_true, Bool.or_eq_true, bne_iff_ne, beq_iff_eq, ne_eq,
          Bool.not_eq_false', Bool.not_eq_false, decide_not, not_not,
          Bool.decide_eq_true, Bool.false_eq_true, Bool.true_eq_false,
          not_false_eq_true, not_true_eq_false, and_true, true_and, and_false,
          false_and, or_true, true_or, or_false, false_or, not_true, not_false_iff,
          iff_self, true_iff, iff_true, false_iff, iff_false, ite_self,
          decide_eq_decide, decide_False, decide_True, Bool.not_true, Bool.not_false]
    have y1 : (fast_pow.L_2TAG_PACKET_35_0_2_1 cpu s).get (.m 16) = y := by
      set_option maxRecDepth 8000 in
      simp only [
          ↓reduceIte, ↓fast_pow.pow_L_2TAG_PACKET_35_0_2_1_sem, hy, ↓Machine.get_setx,
          ↓Machine.get_setg, ↓Machine.get_setstk, ↓Machine.get_enter,
          ↓Machine.get_setFlags, ↓Machine.trace_set, ↓Machine.get_ite,
          ↓Machine.trace_ite, ↓Machine.obs_eq_get, ↓Machine.flags_get,
          ↓Machine.flags_trace, ↓sem_get_1, ↓sem_get_2, ↓sem_get_3, ↓sem_get_4,
          ↓sem_trace_1, ↓sem_trace_2, ↓sem_trace_3, ↓sem_trace_4, ↓load_const, cc_iff,
          ea, and_imm, and_imm_left, ilog2_lit, or_eq_zero, or_mod32, or_lt_2p31,
          Nat.mod_mod, Nat.zero_or, Nat.or_zero, Nat.sub_zero, Nat.add_mod_right,
          lane_eq, Machine.io_eq_get, Nat.xor_self, Loc.x.injEq, Loc.g.injEq,
          Loc.m.injEq, Bool.toNat_eq_zero, Bool.toNat_eq_one, Nat.reducePow,
          Nat.reduceMul, Nat.reduceMod, Nat.reduceAdd, Nat.reduceSub, Nat.reduceDiv,
          Nat.reduceEqDiff, Nat.reduceLTLE, Nat.reduceLeDiff, Nat.reduceLT,
          Nat.reduceGT, Nat.reduceOr, Nat.reduceXor, reduceCtorEq, Bool.not_eq_true',
          Bool.not_eq_true, decide_eq_true_eq, decide_eq_false_iff_not,
          Bool.and_eq_true, Bool.or_eq_true, bne_iff_ne, beq_iff_eq, ne_eq,
          Bool.not_eq_false', Bool.not_eq_false, decide_not, not_not,
          Bool.decide_eq_true, Bool.false_eq_true, Bool.true_eq_false,
          not_false_eq_true, not_true_eq_false, and_true, true_and, and_false,
          false_and, or_true, true_or, or_false, false_or, not_true, not_false_iff,
          iff_self, true_iff, iff_true, false_iff, iff_false, ite_self,
          decide_eq_decide, decide_False, decide_True, Bool.not_true, Bool.not_false]
    obtain ⟨r1, -⟩ := pow_L8_main cpu (fast_pow.L_2TAG_PACKET_35_0_2_1 cpu s) x y x1 hx64 (by omega) y1
    constructor
    · intro _
      exact reach_step cpu _ s _ _ _ _ (r1 hnz) t1 (by decide) (by decide)
    · intro h
      exact absurd (Or.inl ⟨by omega, by omega⟩) h
  · rw [if_neg hb]
    have hE : 16 ≤ x / 281474976710656 % 32768 := by
      by_contra hn
      exact hb (hc.2 (by omega))
    have a2 : (fast_pow.L_2TAG_PACKET_35_0_2_2 cpu (fast_pow.L_2TAG_PACKET_35_0_2_1 cpu s)).get (.g eax) % 4294967296 =
        x / 281474976710656 % 32768 - 16 := by
      set_option maxRecDepth 8000 in
      simp only [
          ↓reduceIte, ↓fast_pow.pow_L_2TAG_PACKET_35_0_2_2_sem,
          ↓fast_pow.pow_L_2TAG_PACKET_35_0_2_1_sem, hx, ↓Machine.get_setx,
          ↓Machine.get_setg, ↓Machine.get_setstk, ↓Machine.get_enter,
          ↓Machine.get_setFlags, ↓Machine.trace_set, ↓Machine.get_ite,
          ↓Machine.trace_ite, ↓Machine.obs_eq_get, ↓Machine.flags_get,
          ↓Machine.flags_trace, ↓sem_get_1, ↓sem_get_2, ↓sem_get_3, ↓sem_get_4,
          ↓sem_trace_1, ↓sem_trace_2, ↓sem_trace_3, ↓sem_trace_4, ↓load_const, cc_iff,
          ea, and_imm, and_imm_left, ilog2_lit, or_eq_zero, or_mod32, or_lt_2p31,
          Nat.mod_mod, Nat.zero_or, Nat.or_zero, Nat.sub_zero, Nat.add_mod_right,
          lane_eq, Machine.io_eq_get, Nat.xor_self, Loc.x.injEq, Loc.g.injEq,
          Loc.m.injEq, Bool.toNat_eq_zero, Bool.toNat_eq_one, Nat.reducePow,
          Nat.reduceMul, Nat.reduceMod, Nat.reduceAdd, Nat.reduceSub, Nat.reduceDiv,
          Nat.reduceEqDiff, Nat.reduceLTLE, Nat.reduceLeDiff, Nat.reduceLT,
          Nat.reduceGT, Nat.reduceOr, Nat.reduceXor, reduceCtorEq, Bool.not_eq_true',
          Bool.not_eq_true, decide_eq_true_eq, decide_eq_false_iff_not,
          Bool.and_eq_true, Bool.or_eq_true, bne_iff_ne, beq_iff_eq, ne_eq,
          Bool.not_eq_false', Bool.not_eq_false, decide_not, not_not,
          Bool.decide_eq_true, Bool.false_eq_true, Bool.true_eq_false,
          not_false_eq_true, not_true_eq_false, and_true, true_and, and_false,
          false_and, or_true, true_or, or_false, false_or, not_true, not_false_iff,
          iff_self, true_iff, iff_true, false_iff, iff_false, ite_self,
          decide_eq_decide, decide_False, decide_True, Bool.not_true, Bool.not_false]
      all_goals omega
    have y2 : (fast_pow.L_2TAG_PACKET_35_0_2_2 cpu (fast_pow.L_2TAG_PACKET_35_0_2_1 cpu s)).get (.m 16) = y := by
      set_option maxRecDepth 8000 in
      simp only [
          ↓reduceIte, ↓fast_pow.pow_L_2TAG_PACKET_35_0_2_2_sem,
          ↓fast_pow.pow_L_2TAG_PACKET_35_0_2_1_sem, hy, ↓Machine.get_setx,
          ↓Machine.get_setg, ↓Machine.get_setstk, ↓Machine.get_enter,
          ↓Machine.get_setFlags, ↓Machine.trace_set, ↓Machine.get_ite,
          ↓Machine.trace_ite, ↓Machine.obs_eq_get, ↓Machine.flags_get,
          ↓Machine.flags_trace, ↓sem_get_1, ↓sem_get_2, ↓sem_get_3, ↓sem_get_4,
          ↓sem_trace_1, ↓sem_trace_2, ↓sem_trace_3, ↓sem_trace_4, ↓load_const, cc_iff,
          ea, and_imm, and_imm_left, ilog2_lit, or_eq_zero, or_mod32, or_lt_2p31,
          Nat.mod_mod, Nat.zero_or, Nat.or_zero, Nat.sub_zero, Nat.add_mod_right,
          lane_eq, Machine.io_eq_get, Nat.xor_self, Loc.x.injEq, Loc.g.injEq,
          Loc.m.injEq, Bool.toNat_eq_zero, Bool.toNat_eq_one, Nat.reducePow,
          Nat.reduceMul, Nat.reduceMod, Nat.reduceAdd, Nat.reduceSub, Nat.reduceDiv,
          Nat.reduceEqDiff, Nat.reduceLTLE, Nat.reduceLeDiff, Nat.reduceLT,
          Nat.reduceGT, Nat.reduceOr, Nat.reduceXor, reduceCtorEq, Bool.not_eq_true',
          Bool.not_eq_true, decide_eq_true_eq, decide_eq_false_iff_not,
          Bool.and_eq_true, Bool.or_eq_true, bne_iff_ne, beq_iff_eq, ne_eq,
          Bool.not_eq_false', Bool.not_eq_false, decide_not, not_not,
          Bool.decide_eq_true, Bool.false_eq_true, Bool.true_eq_false,
          not_false_eq_true, not_true_eq_false, and_true, true_and, and_false,
          false_and, or_true, true_or, or_false, false_or, not_true, not_false_iff,
          iff_self, true_iff, iff_true, false_iff, iff_false, ite_self,
          decide_eq_decide, decide_False, decide_True, Bool.not_true, Bool.not_false]
    obtain ⟨r1, r2⟩ := pow_L1_main cpu (fast_pow.L_2TAG_PACKET_35_0_2_2 cpu (fast_pow.L_2TAG_PACKET_35_0_2_1 cpu s)) (x / 281474976710656 % 32768) y hE
      (by omega) a2 y2
    rw [← f64Ilogb_normal x hE] at r1
    constructor
    · intro h
      exact reach_step cpu _ s _ _ _ _ (r1 h) t2 (by decide) (by decide)
    · intro h
      exact avoid_step _ s _ _ (r2 h) t2 (by decide)

/-- From `L_2TAG_PACKET_36_0_2`, entered with a finite non-zero base in its stack slot: the run
enters `L_2TAG_PACKET_4_0_2` with the exponent of the base in `eax`, unless the base is near
one (top 15 bits of `|x|` 16367 or 16368) and the exponent field of `y` is at least 1035. -/
theorem pow_L36_main (cpu : Cpu) (s : Machine) (x y : Nat) (hx : s.get (.m 8) = x)
    (hx64 : x < 18446744073709551616) (hfin : x / 4503599627370496 % 2048 < 2047)
    (hnz : x % 9223372036854775808 ≠ 0) (hy : s.get (.m 16) = y) :
    (((x / 281474976710656 % 32768 ≠ 16367 ∧ x / 281474976710656 % 32768 ≠ 16368) ∨
        y / 2 ^ 52 % 2048 < 1035) →
      fast_pow.ReachesMain cpu (fast_pow.L_2TAG_PACKET_36_0_2 cpu s) s (f64Ilogb x) y) ∧
    (¬ ((x / 281474976710656 % 32768 ≠ 16367 ∧ x / 281474976710656 % 32768 ≠ 16368) ∨
        y / 2 ^ 52 % 2048 < 1035) →
      fast_pow.AvoidsMain (fast_pow.L_2TAG_PACKET_36_0_2 cpu s) s) := by
  have hc : cc_less (fast_pow.L_2TAG_PACKET_36_0_2_1 cpu s) = true ↔ x / 281474976710656 % 32768 < 16 := by
    set_option maxRecDepth 8000 in
    simp only [
        ↓reduceIte, ↓fast_pow.pow_L_2TAG_PACKET_36_0_2_1_sem, hx, ↓Machine.get_setx,
        ↓Machine.get_setg, ↓Machine.get_setstk, ↓Machine.get_enter, ↓Machine.get_setFlags,
        ↓Machine.trace_set, ↓Machine.get_ite, ↓Machine.trace_ite, ↓Machine.obs_eq_get,
        ↓Machine.flags_get, ↓Machine.flags_trace, ↓sem_get_1, ↓sem_get_2, ↓sem_get_3,
        ↓sem_get_4, ↓sem_trace_1, ↓sem_trace_2, ↓sem_trace_3, ↓sem_trace_4, ↓load_const,
        cc_iff, ea, and_imm, and_imm_left, ilog2_lit, or_eq_zero, or_mod32, or_lt_2p31,
        Nat.mod_mod, Nat.zero_or, Nat.or_zero, Nat.sub_zero, Nat.add_mod_right, lane_eq,
        Machine.io_eq_get, Nat.xor_self, Loc.x.injEq, Loc.g.injEq, Loc.m.injEq,
        Bool.toNat_eq_zero, Bool.toNat_eq_one, Nat.reducePow, Nat.reduceMul,
        Nat.reduceMod, Nat.reduceAdd, Nat.reduceSub, Nat.reduceDiv, Nat.reduceEqDiff,
        Nat.reduceLTLE, Nat.reduceLeDiff, Nat.reduceLT, Nat.reduceGT, Nat.reduceOr,
        Nat.reduceXor, reduceCtorEq, Bool.not_eq_true', Bool.not_eq_true,
        decide_eq_true_eq, decide_eq_false_iff_not, Bool.and_eq_true, Bool.or_eq_true,
        bne_iff_ne, beq_iff_eq, ne_eq, Bool.not_eq_false', Bool.not_eq_false, decide_not,
        not_not, Bool.decide_eq_true, Bool.false_eq_true, Bool.true_eq_false,
        not_false_eq_true, not_true_eq_false, and_true, true_and, and_false, false_and,
        or_true, true_or, or_false, false_or, not_true, not_false_iff, iff_self, true_iff,
        iff_true, false_iff, iff_false, ite_self, decide_eq_decide, decide_False,
        decide_True, Bool.not_true, Bool.not_false]
    all_goals omega
  have t1 : (fast_pow.L_2TAG_PACKET_36_0_2_1 cpu s).trace = Label.L_2TAG_PACKET_36_0_2 :: s.trace := by
    rw [fast_pow.pow_L_2TAG_PACKET_36_0_2_1_trace]
  have t2 : (fast_pow.L_2TAG_PACKET_36_0_2_2 cpu (fast_pow.L_2TAG_PACKET_36_0_2_1 cpu s)).trace = Label.L_2TAG_PACKET_36_0_2 :: s.trace := by
    rw [fast_pow.pow_L_2TAG_PACKET_36_0_2_2_trace, fast_pow.pow_L_2TAG_PACKET_36_0_2_1_trace]
  rw [fast_pow.pow_L_2TAG_PACKET_36_0_2_eq]
  by_cases hb : cc_less (fast_pow.L_2TAG_PACKET_36_0_2_1 cpu s) = true
  · rw [if_pos hb]
    have hE := hc.1 hb
    have x1 : (fast_pow.L_2TAG_PACKET_36_0_2_1 cpu s).get (.m 8) = x := by
      set_option maxRecDepth 8000 in
      simp only [
          ↓reduceIte, ↓fast_pow.pow_L_2TAG_PACKET_36_0_2_1_sem, hx, ↓Machine.get_setx,
          ↓Machine.get_setg, ↓Machine.get_setstk, ↓Machine.get_enter,
          ↓Machine.get_setFlags, ↓Machine.trace_set, ↓Machine.get_ite,
          ↓Machine.trace_ite, ↓Machine.obs_eq_get, ↓Machine.flags_get,
          ↓Machine.flags_trace, ↓sem_get_1, ↓sem_get_2, ↓sem_get_3, ↓sem_get_4,
          ↓sem_trace_1, ↓sem_trace_2, ↓sem_trace_3, ↓sem_trace_4, ↓load_const, cc_iff,
          ea, and_imm, and_imm_left, ilog2_lit, or_eq_zero, or_mod32, or_lt_2p31,
          Nat.mod_mod, Nat.zero_or, Nat.or_zero, Nat.sub_zero, Nat.add_mod_right,
          lane_eq, Machine.io_eq_get, Nat.xor_self, Loc.x.injEq, Loc.g.injEq,
          Loc.m.injEq, Bool.toNat_eq_zero, Bool.toNat_eq_one, Nat.reducePow,
          Nat.reduceMul, Nat.reduceMod, Nat.reduceAdd, Nat.reduceSub, Nat.reduceDiv,
          Nat.reduceEqDiff, Nat.reduceLTLE, Nat.reduceLeDiff, Nat.reduceLT,
          Nat.reduceGT, Nat.reduceOr, Nat.reduceXor, reduceCtorEq, Bool.not_eq_true',
          Bool.not_eq_true, decide_eq_true_eq, decide_eq_false_iff_not,
          Bool.and_eq_true, Bool.or_eq_true, bne_iff_ne, beq_iff_eq, ne_eq,
          Bool.not_eq_false', Bool.not_eq_false, decide_not, not_not,
          Bool.decide_eq_true, Bool.false_eq_true, Bool.true_eq_false,
          not_false_eq_true, not_true_eq_false, and_true, true_and, and_false,
          false_and, or_true, true_or, or_false, false_or, not_true, not_false_iff,
          iff_self, true_iff, iff_true, false_iff, iff_false, ite_self,
          decide_eq_decide, decide_False, decide_True, Bool.not_true, Bool.not_false]
    have y1 : (fast_pow.L_2TAG_PACKET_36_0_2_1 cpu s).get (.m 16) = y := by
      set_option maxRecDepth 8000 in
      simp only [
          ↓reduceIte, ↓fast_pow.pow_L_2TAG_PACKET_36_0_2_1_sem, hy, ↓Machine.get_setx,
          ↓Machine.get_setg, ↓Machine.get_setstk, ↓Machine.get_enter,
          ↓Machine.get_setFlags, ↓Machine.trace_set, ↓Machine.get_ite,
          ↓Machine.trace_ite, ↓Machine.obs_eq_get, ↓Machine.flags_get,
          ↓Machine.flags_trace, ↓sem_get_1, ↓sem_get_2, ↓sem_get_3, ↓sem_get_4,
          ↓sem_trace_1, ↓sem_trace_2, ↓sem_trace_3, ↓sem_trace_4, ↓load_const, cc_iff,
          ea, and_imm, and_imm_left, ilog2_lit, or_eq_zero, or_mod32, or_lt_2p31,
          Nat.mod_mod, Nat.zero_or, Nat.or_zero, Nat.sub_zero, Nat.add_mod_right,
          lane_eq, Machine.io_eq_get, Nat.xor_self, Loc.x.injEq, Loc.g.injEq,
          Loc.m.injEq, Bool.toNat_eq_zero, Bool.toNat_eq_one, Nat.reducePow,
          Nat.reduceMul, Nat.reduceMod, Nat.reduceAdd, Nat.reduceSub, Nat.reduceDiv,
          Nat.reduceEqDiff, Nat.reduceLTLE, Nat.reduceLeDiff, Nat.reduceLT,
          Nat.reduceGT, Nat.reduceOr, Nat.reduceXor, reduceCtorEq, Bool.not_eq_true',
          Bool.not_eq_true, decide_eq_true_eq, decide_eq_false_iff_not,
          Bool.and_eq_true, Bool.or_eq_true, bne_iff_ne, beq_iff_eq, ne_eq,
          Bool.not_eq_false', Bool.not_eq_false, decide_not, not_not,
          Bool.decide_eq_true, Bool.false_eq_true, Bool.true_eq_false,
          not_false_eq_true, not_true_eq_false, and_true, true_and, and_false,
          false_and, or_true, true_or, or_false, false_or, not_true, not_false_iff,
          iff_self, true_iff, iff_true, false_iff, iff_false, ite_self,
          decide_eq_decide, decide_False, decide_True, Bool.not_true, Bool.not_false]
    obtain ⟨r1, -⟩ := pow_L10_main cpu (fast_pow.L_2TAG_PACKET_36_0_2_1 cpu s) x y x1 hx64 (by omega) y1
    constructor
    · intro _
      exact reach_step cpu _ s _ _ _ _ (r1 hnz) t1 (by decide) (by decide)
    · intro h
      exact absurd (Or.inl ⟨by omega, by omega⟩) h
  · rw [if_neg hb]
    have hE : 16 ≤ x / 281474976710656 % 32768 := by
      by_contra hn
      exact hb (hc.2 (by omega))
    have a2 : (fast_pow.L_2TAG_PACKET_36_0_2_2 cpu (fast_pow.L_2TAG_PACKET_36_0_2_1 cpu s)).get (.g eax) % 4294967296 =
        x / 281474976710656 % 32768 - 16 := by
      set_option maxRecDepth 8000 in
      simp only [
          ↓reduceIte, ↓fast_pow.pow_L_2TAG_PACKET_36_0_2_2_sem,
          ↓fast_pow.pow_L_2TAG_PACKET_36_0_2_1_sem, hx, ↓Machine.get_setx,
          ↓Machine.get_setg, ↓Machine.get_setstk, ↓Machine.get_enter,
          ↓Machine.get_setFlags, ↓Machine.trace_set, ↓Machine.get_ite,
          ↓Machine.trace_ite, ↓Machine.obs_eq_get, ↓Machine.flags_get,
          ↓Machine.flags_trace, ↓sem_get_1, ↓sem_get_2, ↓sem_get_3, ↓sem_get_4,
          ↓sem_trace_1, ↓sem_trace_2, ↓sem_trace_3, ↓sem_trace_4, ↓load_const, cc_iff,
          ea, and_imm, and_imm_left, ilog2_lit, or_eq_zero, or_mod32, or_lt_2p31,
          Nat.mod_mod, Nat.zero_or, Nat.or_zero, Nat.sub_zero, Nat.add_mod_right,
          lane_eq, Machine.io_eq_get, Nat.xor_self, Loc.x.injEq, Loc.g.injEq,
          Loc.m.injEq, Bool.toNat_eq_zero, Bool.toNat_eq_one, Nat.reducePow,
          Nat.reduceMul, Nat.reduceMod, Nat.reduceAdd, Nat.reduceSub, Nat.reduceDiv,
          Nat.reduceEqDiff, Nat.reduceLTLE, Nat.reduceLeDiff, Nat.reduceLT,
          Nat.reduceGT, Nat.reduceOr, Nat.reduceXor, reduceCtorEq, Bool.not_eq_true',
          Bool.not_eq_true, decide_eq_true_eq, decide_eq_false_iff_not,
          Bool.and_eq_true, Bool.or_eq_true, bne_iff_ne, beq_iff_eq, ne_eq,
          Bool.not_eq_false', Bool.not_eq_false, decide_not, not_not,
          Bool.decide_eq_true, Bool.false_eq_true, Bool.true_eq_false,
          not_false_eq_true, not_true_eq_false, and_true, true_and, and_false,
          false_and, or_true, true_or, or_false, false_or, not_true, not_false_iff,
          iff_self, true_iff, iff_true, false_iff, iff_false, ite_self,
          decide_eq_decide, decide_False, decide_True, Bool.not_true, Bool.not_false]
      all_goals omega
    have y2 : (fast_pow.L_2TAG_PACKET_36_0_2_2 cpu (fast_pow.L_2TAG_PACKET_36_0_2_1 cpu s)).get (.m 16) = y := by
      set_option maxRecDepth 8000 in
      simp only [
          ↓reduceIte, ↓fast_pow.pow_L_2TAG_PACKET_36_0_2_2_sem,
          ↓fast_pow.pow_L_2TAG_PACKET_36_0_2_1_sem, hy, ↓Machine.get_setx,
          ↓Machine.get_setg, ↓Machine.get_setstk, ↓Machine.get_enter,
          ↓Machine.get_setFlags, ↓Machine.trace_set, ↓Machine.get_ite,
          ↓Machine.trace_ite, ↓Machine.obs_eq_get, ↓Machine.flags_get,
          ↓Machine.flags_trace, ↓sem_get_1, ↓sem_get_2, ↓sem_get_3, ↓sem_get_4,
          ↓sem_trace_1, ↓sem_trace_2, ↓sem_trace_3, ↓sem_trace_4, ↓load_const, cc_iff,
          ea, and_imm, and_imm_left, ilog2_lit, or_eq_zero, or_mod32, or_lt_2p31,
          Nat.mod_mod, Nat.zero_or, Nat.or_zero, Nat.sub_zero, Nat.add_mod_right,
          lane_eq, Machine.io_eq_get, Nat.xor_self, Loc.x.injEq, Loc.g.injEq,
          Loc.m.injEq, Bool.toNat_eq_zero, Bool.toNat_eq_one, Nat.reducePow,
          Nat.reduceMul, Nat.reduceMod, Nat.reduceAdd, Nat.reduceSub, Nat.reduceDiv,
          Nat.reduceEqDiff, Nat.reduceLTLE, Nat.reduceLeDiff, Nat.reduceLT,
          Nat.reduceGT, Nat.reduceOr, Nat.reduceXor, reduceCtorEq, Bool.not_eq_true',
          Bool.not_eq_true, decide_eq_true_eq, decide_eq_false_iff_not,
          Bool.and_eq_true, Bool.or_eq_true, bne_iff_ne, beq_iff_eq, ne_eq,
          Bool.not_eq_false', Bool.not_eq_false, decide_not, not_not,
          Bool.decide_eq_true, Bool.false_eq_true, Bool.true_eq_false,
          not_false_eq_true, not_true_eq_false, and_true, true_and, and_false,
          false_and, or_true, true_or, or_false, false_or, not_true, not_false_iff,
          iff_self, true_iff, iff_true, false_iff, iff_false, ite_self,
          decide_eq_decide, decide_False, decide_True, Bool.not_true, Bool.not_false]
    obtain ⟨r1, r2⟩ := pow_L1_main cpu (fast_pow.L_2TAG_PACKET_36_0_2_2 cpu (fast_pow.L_2TAG_PACKET_36_0_2_1 cpu s)) (x / 281474976710656 % 32768) y hE
      (by omega) a2 y2
    rw [← f64Ilogb_normal x hE] at r1
    constructor
    · intro h
      exact reach_step cpu _ s _ _ _ _ (r1 h) t2 (by decide) (by decide)
    · intro h
      exact avoid_step _ s _ _ (r2 h) t2 (by decide)

/-- From `L_2TAG_PACKET_35_0_2` the run either enters `L_2TAG_PACKET_4_0_2` as described or
never enters it. -/
theorem pow_L35_either (cpu : Cpu) (s : Machine) (x y : Nat) (hx : s.get (.m 8) = x)
    (hx64 : x < 18446744073709551616) (hfin : x / 4503599627370496 % 2048 < 2047)
    (hnz : x % 9223372036854775808 ≠ 0) (hy : s.get (.m 16) = y) :
    fast_pow.ReachesMain cpu (fast_pow.L_2TAG_PACKET_35_0_2 cpu s) s (f64Ilogb x) y ∨
      fast_pow.AvoidsMain (fast_pow.L_2TAG_PACKET_35_0_2 cpu s) s := by
  obtain ⟨r1, r2⟩ := pow_L35_main cpu s x y hx hx64 hfin hnz hy
  by_cases h : (x / 281474976710656 % 32768 ≠ 16367 ∧ x / 281474976710656 % 32768 ≠ 16368) ∨
      y / 2 ^ 52 % 2048 < 1035
  · exact Or.inl (r1 h)
  · exact Or.inr (r2 h)

/-- From `L_2TAG_PACKET_36_0_2` the run either enters `L_2TAG_PACKET_4_0_2` as described or
never enters it. -/
theorem pow_L36_either (cpu : Cpu) (s : Machine) (x y : Nat) (hx : s.get (.m 8) = x)
    (hx64 : x < 18446744073709551616) (hfin : x / 4503599627370496 % 2048 < 2047)
    (hnz : x % 9223372036854775808 ≠ 0) (hy : s.get (.m 16) = y) :
    fast_pow.ReachesMain cpu (fast_pow.L_2TAG_PACKET_36_0_2 cpu s) s (f64Ilogb x) y ∨
      fast_pow.AvoidsMain (fast_pow.L_2TAG_PACKET_36_0_2 cpu s) s := by
  obtain ⟨r1, r2⟩ := pow_L36_main cpu s x y hx hx64 hfin hnz hy
  by_cases h : (x / 281474976710656 % 32768 ≠ 16367 ∧ x / 281474976710656 % 32768 ≠ 16368) ∨
      y / 2 ^ 52 % 2048 < 1035
  · exact Or.inl (r1 h)
  · exact Or.inr (r2 h)

theorem either_step (cpu : Cpu) (r s t : Machine) (k : Int) (y : Nat) (b : Label)
    (h : fast_pow.ReachesMain cpu r t k y ∨ fast_pow.AvoidsMain r t)
    (ht : t.trace = b :: s.trace)
    (h4 : b ≠ Label.L_2TAG_PACKET_4_0_2) (h5 : b ≠ Label.L_2TAG_PACKET_5_0_2) :
    fast_pow.ReachesMain cpu r s k y ∨ fast_pow.AvoidsMain r s := by
  rcases h with h | h
  · exact Or.inl (reach_step cpu r s t k y b h ht h4 h5)
  · exact Or.inr (avoid_step r s t b h ht h4)

/-- From `L_2TAG_PACKET_33_0_2` the run either enters `L_2TAG_PACKET_4_0_2` with the exponent of
the base in `eax` or never enters it. -/
theorem pow_L33_either (cpu : Cpu) (s : Machine) (x y : Nat) (hx : s.get (.m 8) = x)
    (hx64 : x < 18446744073709551616) (hfin : x / 4503599627370496 % 2048 < 2047)
    (hnz : x % 9223372036854775808 ≠ 0)
    (hy : s.get (.m 16) = y) :
    fast_pow.ReachesMain cpu (fast_pow.L_2TAG_PACKET_33_0_2 cpu s) s (f64Ilogb x) y ∨
      fast_pow.AvoidsMain (fast_pow.L_2TAG_PACKET_33_0_2 cpu s) s := by
  have t1 : (fast_pow.L_2TAG_PACKET_33_0_2_1 cpu s).trace = Label.L_2TAG_PACKET_33_0_2 :: s.trace := by
    rw [fast_pow.pow_L_2TAG_PACKET_33_0_2_1_trace]
  have x1 : (fast_pow.L_2TAG_PACKET_33_0_2_1 cpu s).get (.m 8) = x := by
    set_option maxRecDepth 8000 in
    simp only [
        ↓reduceIte, ↓fast_pow.pow_L_2TAG_PACKET_33_0_2_1_sem, hx, ↓Machine.get_setx,
        ↓Machine.get_setg, ↓Machine.get_setstk, ↓Machine.get_enter, ↓Machine.get_setFlags,
        ↓Machine.trace_set, ↓Machine.get_ite, ↓Machine.trace_ite, ↓Machine.obs_eq_get,
        ↓Machine.flags_get, ↓Machine.flags_trace, ↓sem_get_1, ↓sem_get_2, ↓sem_get_3,
        ↓sem_get_4, ↓sem_trace_1, ↓sem_trace_2, ↓sem_trace_3, ↓sem_trace_4, ↓load_const,
        cc_iff, ea, and_imm, and_imm_left, ilog2_lit, or_eq_zero, or_mod32, or_lt_2p31,
        Nat.mod_mod, Nat.zero_or, Nat.or_zero, Nat.sub_zero, Nat.add_mod_right, lane_eq,
        Machine.io_eq_get, Nat.xor_self, Loc.x.injEq, Loc.g.injEq, Loc.m.injEq,
        Bool.toNat_eq_zero, Bool.toNat_eq_one, Nat.reducePow, Nat.reduceMul,
        Nat.reduceMod, Nat.reduceAdd, Nat.reduceSub, Nat.reduceDiv, Nat.reduceEqDiff,
        Nat.reduceLTLE, Nat.reduceLeDiff, Nat.reduceLT, Nat.reduceGT, Nat.reduceOr,
        Nat.reduceXor, reduceCtorEq, Bool.not_eq_true', Bool.not_eq_true,
        decide_eq_true_eq, decide_eq_false_iff_not, Bool.and_eq_true, Bool.or_eq_true,
        bne_iff_ne, beq_iff_eq, ne_eq, Bool.not_eq_false', Bool.not_eq_false, decide_not,
        not_not, Bool.decide_eq_true, Bool.false_eq_true, Bool.true_eq_false,
        not_false_eq_true, not_true_eq_false, and_true, true_and, and_false, false_and,
        or_true, true_or, or_false, false_or, not_true, not_false_iff, iff_self, true_iff,
        iff_true, false_iff, iff_false, ite_self, decide_eq_decide, decide_False,
        decide_True, Bool.not_true, Bool.not_false]
  have y1 : (fast_pow.L_2TAG_PACKET_33_0_2_1 cpu s).get (.m 16) = y := by
    set_option maxRecDepth 8000 in
    simp only [
        ↓reduceIte, ↓fast_pow.pow_L_2TAG_PACKET_33_0_2_1_sem, hy, ↓Machine.get_setx,
        ↓Machine.get_setg, ↓Machine.get_setstk, ↓Machine.get_enter, ↓Machine.get_setFlags,
        ↓Machine.trace_set, ↓Machine.get_ite, ↓Machine.trace_ite, ↓Machine.obs_eq_get,
        ↓Machine.flags_get, ↓Machine.flags_trace, ↓sem_get_1, ↓sem_get_2, ↓sem_get_3,
        ↓sem_get_4, ↓sem_trace_1, ↓sem_trace_2, ↓sem_trace_3, ↓sem_trace_4, ↓load_const,
        cc_iff, ea, and_imm, and_imm_left, ilog2_lit, or_eq_zero, or_mod32, or_lt_2p31,
        Nat.mod_mod, Nat.zero_or, Nat.or_zero, Nat.sub_zero, Nat.add_mod_right, lane_eq,
        Machine.io_eq_get, Nat.xor_self, Loc.x.injEq, Loc.g.injEq, Loc.m.injEq,
        Bool.toNat_eq_zero, Bool.toNat_eq_one, Nat.reducePow, Nat.reduceMul,
        Nat.reduceMod, Nat.reduceAdd, Nat.reduceSub, Nat.reduceDiv, Nat.reduceEqDiff,
        Nat.reduceLTLE, Nat.reduceLeDiff, Nat.reduceLT, Nat.reduceGT, Nat.reduceOr,
        Nat.reduceXor, reduceCtorEq, Bool.not_eq_true', Bool.not_eq_true,
        decide_eq_true_eq, decide_eq_false_iff_not, Bool.and_eq_true, Bool.or_eq_true,
        bne_iff_ne, beq_iff_eq, ne_eq, Bool.not_eq_false', Bool.not_eq_false, decide_not,
        not_not, Bool.decide_eq_true, Bool.false_eq_true, Bool.true_eq_false,
        not_false_eq_true, not_true_eq_false, and_true, true_and, and_false, false_and,
        or_true, true_or, or_false, false_or, not_true, not_false_iff, iff_self, true_iff,
        iff_true, false_iff, iff_false, ite_self, decide_eq_decide, decide_False,
        decide_True, Bool.not_true, Bool.not_false]
  have t2 : (fast_pow.L_2TAG_PACKET_33_0_2_2 cpu (fast_pow.L_2TAG_PACKET_33_0_2_1 cpu s)).trace = Label.L_2TAG_PACKET_33_0_2 :: s.trace := by
    rw [fast_pow.pow_L_2TAG_PACKET_33_0_2_2_trace, fast_pow.pow_L_2TAG_PACKET_33_0_2_1_trace]
  have x2 : (fast_pow.L_2TAG_PACKET_33_0_2_2 cpu (fast_pow.L_2TAG_PACKET_33_0_2_1 cpu s)).get (.m 8) = x := by
    set_option maxRecDepth 8000 in
    simp only [
        ↓reduceIte, ↓fast_pow.pow_L_2TAG_PACKET_33_0_2_2_sem,
        ↓fast_pow.pow_L_2TAG_PACKET_33_0_2_1_sem, hx, ↓Machine.get_setx,
        ↓Machine.get_setg, ↓Machine.get_setstk, ↓Machine.get_enter, ↓Machine.get_setFlags,
        ↓Machine.trace_set, ↓Machine.get_ite, ↓Machine.trace_ite, ↓Machine.obs_eq_get,
        ↓Machine.flags_get, ↓Machine.flags_trace, ↓sem_get_1, ↓sem_get_2, ↓sem_get_3,
        ↓sem_get_4, ↓sem_trace_1, ↓sem_trace_2, ↓sem_trace_3, ↓sem_trace_4, ↓load_const,
        cc_iff, ea, and_imm, and_imm_left, ilog2_lit, or_eq_zero, or_mod32, or_lt_2p31,
        Nat.mod_mod, Nat.zero_or, Nat.or_zero, Nat.sub_zero, Nat.add_mod_right, lane_eq,
        Machine.io_eq_get, Nat.xor_self, Loc.x.injEq, Loc.g.injEq, Loc.m.injEq,
        Bool.toNat_eq_zero, Bool.toNat_eq_one, Nat.reducePow, Nat.reduceMul,
        Nat.reduceMod, Nat.reduceAdd, Nat.reduceSub, Nat.reduceDiv, Nat.reduceEqDiff,
        Nat.reduceLTLE, Nat.reduceLeDiff, Nat.reduceLT, Nat.reduceGT, Nat.reduceOr,
        Nat.reduceXor, reduceCtorEq, Bool.not_eq_true', Bool.not_eq_true,
        decide_eq_true_eq, decide_eq_false_iff_not, Bool.and_eq_true, Bool.or_eq_true,
        bne_iff_ne, beq_iff_eq, ne_eq, Bool.not_eq_false', Bool.not_eq_false, decide_not,
        not_not, Bool.decide_eq_true, Bool.false_eq_true, Bool.true_eq_false,
        not_false_eq_true, not_true_eq_false, and_true, true_and, and_false, false_and,
        or_true, true_or, or_false, false_or, not_true, not_false_iff, iff_self, true_iff,
        iff_true, false_iff, iff_false, ite_self, decide_eq_decide, decide_False,
        decide_True, Bool.not_true, Bool.not_false]
  have y2 : (fast_pow.L_2TAG_PACKET_33_0_2_2 cpu (fast_pow.L_2TAG_PACKET_33_0_2_1 cpu s)).get (.m 16) = y := by
    set_option maxRecDepth 8000 in
    simp only [
        ↓reduceIte, ↓fast_pow.pow_L_2TAG_PACKET_33_0_2_2_sem,
        ↓fast_pow.pow_L_2TAG_PACKET_33_0_2_1_sem, hy, ↓Machine.get_setx,
        ↓Machine.get_setg, ↓Machine.get_setstk, ↓Machine.get_enter, ↓Machine.get_setFlags,
        ↓Machine.trace_set, ↓Machine.get_ite, ↓Machine.trace_ite, ↓Machine.obs_eq_get,
        ↓Machine.flags_get, ↓Machine.flags_trace, ↓sem_get_1, ↓sem_get_2, ↓sem_get_3,
        ↓sem_get_4, ↓sem_trace_1, ↓sem_trace_2, ↓sem_trace_3, ↓sem_trace_4, ↓load_const,
        cc_iff, ea, and_imm, and_imm_left, ilog2_lit, or_eq_zero, or_mod32, or_lt_2p31,
        Nat.mod_mod, Nat.zero_or, Nat.or_zero, Nat.sub_zero, Nat.add_mod_right, lane_eq,
        Machine.io_eq_get, Nat.xor_self, Loc.x.injEq, Loc.g.injEq, Loc.m.injEq,
        Bool.toNat_eq_zero, Bool.toNat_eq_one, Nat.reducePow, Nat.reduceMul,
        Nat.reduceMod, Nat.reduceAdd, Nat.reduceSub, Nat.reduceDiv, Nat.reduceEqDiff,
        Nat.reduceLTLE, Nat.reduceLeDiff, Nat.reduceLT, Nat.reduceGT, Nat.reduceOr,
        Nat.reduceXor, reduceCtorEq, Bool.not_eq_true', Bool.not_eq_true,
        decide_eq_true_eq, decide_eq_false_iff_not, Bool.and_eq_true, Bool.or_eq_true,
        bne_iff_ne, beq_iff_eq, ne_eq, Bool.not_eq_false', Bool.not_eq_false, decide_not,
        not_not, Bool.decide_eq_true, Bool.false_eq_true, Bool.true_eq_false,
        not_false_eq_true, not_true_eq_false, and_true, true_and, and_false, false_and,
        or_true, true_or, or_false, false_or, not_true, not_false_iff, iff_self, true_iff,
        iff_true, false_iff, iff_false, ite_self, decide_eq_decide, decide_False,
        decide_True, Bool.not_true, Bool.not_false]
  rw [fast_pow.pow_L_2TAG_PACKET_33_0_2_eq]
  split_ifs
  · exact either_step cpu _ s _ _ _ _
      (pow_L35_either cpu _ x y x1 hx64 hfin hnz y1) t1 (by decide) (by decide)
  · exact either_step cpu _ s _ _ _ _
      (pow_L36_either cpu _ x y x2 hx64 hfin hnz y2) t2 (by decide) (by decide)

/-- From `L_2TAG_PACKET_32_0_2` the run either enters `L_2TAG_PACKET_4_0_2` with the exponent of
the base in `eax` or never enters it. -/
theorem pow_L32_either (cpu : Cpu) (s : Machine) (x y : Nat) (hx : s.get (.m 8) = x)
    (hx64 : x < 18446744073709551616) (hfin : x / 4503599627370496 % 2048 < 2047)
    (hnz : x % 9223372036854775808 ≠ 0)
    (hy : s.get (.m 16) = y) :
    fast_pow.ReachesMain cpu (fast_pow.L_2TAG_PACKET_32_0_2 cpu s) s (f64Ilogb x) y ∨
      fast_pow.AvoidsMain (fast_pow.L_2TAG_PACKET_32_0_2 cpu s) s := by
  have t1 : (fast_pow.L_2TAG_PACKET_32_0_2_1 cpu s).trace = Label.L_2TAG_PACKET_32_0_2 :: s.trace := by
    rw [fast_pow.pow_L_2TAG_PACKET_32_0_2_1_trace]
  have x1 : (fast_pow.L_2TAG_PACKET_32_0_2_1 cpu s).get (.m 8) = x := by
    set_option maxRecDepth 8000 in
    simp only [
        ↓reduceIte, ↓fast_pow.pow_L_2TAG_PACKET_32_0_2_1_sem, hx, ↓Machine.get_setx,
        ↓Machine.get_setg, ↓Machine.get_setstk, ↓Machine.get_enter, ↓Machine.get_setFlags,
        ↓Machine.trace_set, ↓Machine.get_ite, ↓Machine.trace_ite, ↓Machine.obs_eq_get,
        ↓Machine.flags_get, ↓Machine.flags_trace, ↓sem_get_1, ↓sem_get_2, ↓sem_get_3,
        ↓sem_get_4, ↓sem_trace_1, ↓sem_trace_2, ↓sem_trace_3, ↓sem_trace_4, ↓load_const,
        cc_iff, ea, and_imm, and_imm_left, ilog2_lit, or_eq_zero, or_mod32, or_lt_2p31,
        Nat.mod_mod, Nat.zero_or, Nat.or_zero, Nat.sub_zero, Nat.add_mod_right, lane_eq,
        Machine.io_eq_get, Nat.xor_self, Loc.x.injEq, Loc.g.injEq, Loc.m.injEq,
        Bool.toNat_eq_zero, Bool.toNat_eq_one, Nat.reducePow, Nat.reduceMul,
        Nat.reduceMod, Nat.reduceAdd, Nat.reduceSub, Nat.reduceDiv, Nat.reduceEqDiff,
        Nat.reduceLTLE, Nat.reduceLeDiff, Nat.reduceLT, Nat.reduceGT, Nat.reduceOr,
        Nat.reduceXor, reduceCtorEq, Bool.not_eq_true', Bool.not_eq_true,
        decide_eq_true_eq, decide_eq_false_iff_not, Bool.and_eq_true, Bool.or_eq_true,
        bne_iff_ne, beq_iff_eq, ne_eq, Bool.not_eq_false', Bool.not_eq_false, decide_not,
        not_not, Bool.decide_eq_true, Bool.false_eq_true, Bool.true_eq_false,
        not_false_eq_true, not_true_eq_false, and_true, true_and, and_false, false_and,
        or_true, true_or, or_false, false_or, not_true, not_false_iff, iff_self, true_iff,
        iff_true, false_iff, iff_false, ite_self, decide_eq_decide, decide_False,
        decide_True, Bool.not_true, Bool.not_false]
  have y1 : (fast_pow.L_2TAG_PACKET_32_0_2_1 cpu s).get (.m 16) = y := by
    set_option maxRecDepth 8000 in
    simp only [
        ↓reduceIte, ↓fast_pow.pow_L_2TAG_PACKET_32_0_2_1_sem, hy, ↓Machine.get_setx,
        ↓Machine.get_setg, ↓Machine.get_setstk, ↓Machine.get_enter, ↓Machine.get_setFlags,
        ↓Machine.trace_set, ↓Machine.get_ite, ↓Machine.trace_ite, ↓Machine.obs_eq_get,
        ↓Machine.flags_get, ↓Machine.flags_trace, ↓sem_get_1, ↓sem_get_2, ↓sem_get_3,
        ↓sem_get_4, ↓sem_trace_1, ↓sem_trace_2, ↓sem_trace_3, ↓sem_trace_4, ↓load_const,
        cc_iff, ea, and_imm, and_imm_left, ilog2_lit, or_eq_zero, or_mod32, or_lt_2p31,
        Nat.mod_mod, Nat.zero_or, Nat.or_zero, Nat.sub_zero, Nat.add_mod_right, lane_eq,
        Machine.io_eq_get, Nat.xor_self, Loc.x.injEq, Loc.g.injEq, Loc.m.injEq,
        Bool.toNat_eq_zero, Bool.toNat_eq_one, Nat.reducePow, Nat.reduceMul,
        Nat.reduceMod, Nat.reduceAdd, Nat.reduceSub, Nat.reduceDiv, Nat.reduceEqDiff,
        Nat.reduceLTLE, Nat.reduceLeDiff, Nat.reduceLT, Nat.reduceGT, Nat.reduceOr,
        Nat.reduceXor, reduceCtorEq, Bool.not_eq_true', Bool.not_eq_true,
        decide_eq_true_eq, decide_eq_false_iff_not, Bool.and_eq_true, Bool.or_eq_true,
        bne_iff_ne, beq_iff_eq, ne_eq, Bool.not_eq_false', Bool.not_eq_false, decide_not,
        not_not, Bool.decide_eq_true, Bool.false_eq_true, Bool.true_eq_false,
        not_false_eq_true, not_true_eq_false, and_true, true_and, and_false, false_and,
        or_true, true_or, or_false, false_or, not_true, not_false_iff, iff_self, true_iff,
        iff_true, false_iff, iff_false, ite_self, decide_eq_decide, decide_False,
        decide_True, Bool.not_true, Bool.not_false]
  have t2 : (fast_pow.L_2TAG_PACKET_32_0_2_2 cpu (fast_pow.L_2TAG_PACKET_32_0_2_1 cpu s)).trace = Label.L_2TAG_PACKET_32_0_2 :: s.trace := by
    rw [fast_pow.pow_L_2TAG_PACKET_32_0_2_2_trace, fast_pow.pow_L_2TAG_PACKET_32_0_2_1_trace]
  have t3 : (fast_pow.L_2TAG_PACKET_32_0_2_3 cpu (fast_pow.L_2TAG_PACKET_32_0_2_2 cpu (fast_pow.L_2TAG_PACKET_32_0_2_1 cpu s))).trace = Label.L_2TAG_PACKET_32_0_2 :: s.trace := by
    rw [fast_pow.pow_L_2TAG_PACKET_32_0_2_3_trace, fast_pow.pow_L_2TAG_PACKET_32_0_2_2_trace, fast_pow.pow_L_2TAG_PACKET_32_0_2_1_trace]
  have x3 : (fast_pow.L_2TAG_PACKET_32_0_2_3 cpu (fast_pow.L_2TAG_PACKET_32_0_2_2 cpu (fast_pow.L_2TAG_PACKET_32_0_2_1 cpu s))).get (.m 8) = x := by
    set_option maxRecDepth 8000 in
    simp only [
        ↓reduceIte, ↓fast_pow.pow_L_2TAG_PACKET_32_0_2_3_sem,
        ↓fast_pow.pow_L_2TAG_PACKET_32_0_2_2_sem,
        ↓fast_pow.pow_L_2TAG_PACKET_32_0_2_1_sem, hx, ↓Machine.get_setx,
        ↓Machine.get_setg, ↓Machine.get_setstk, ↓Machine.get_enter, ↓Machine.get_setFlags,
        ↓Machine.trace_set, ↓Machine.get_ite, ↓Machine.trace_ite, ↓Machine.obs_eq_get,
        ↓Machine.flags_get, ↓Machine.flags_trace, ↓sem_get_1, ↓sem_get_2, ↓sem_get_3,
        ↓sem_get_4, ↓sem_trace_1, ↓sem_trace_2, ↓sem_trace_3, ↓sem_trace_4, ↓load_const,
        cc_iff, ea, and_imm, and_imm_left, ilog2_lit, or_eq_zero, or_mod32, or_lt_2p31,
        Nat.mod_mod, Nat.zero_or, Nat.or_zero, Nat.sub_zero, Nat.add_mod_right, lane_eq,
        Machine.io_eq_get, Nat.xor_self, Loc.x.injEq, Loc.g.injEq, Loc.m.injEq,
        Bool.toNat_eq_zero, Bool.toNat_eq_one, Nat.reducePow, Nat.reduceMul,
        Nat.reduceMod, Nat.reduceAdd, Nat.reduceSub, Nat.reduceDiv, Nat.reduceEqDiff,
        Nat.reduceLTLE, Nat.reduceLeDiff, Nat.reduceLT, Nat.reduceGT, Nat.reduceOr,
        Nat.reduceXor, reduceCtorEq, Bool.not_eq_true', Bool.not_eq_true,
        decide_eq_true_eq, decide_eq_false_iff_not, Bool.and_eq_true, Bool.or_eq_true,
        bne_iff_ne, beq_iff_eq, ne_eq, Bool.not_eq_false', Bool.not_eq_false, decide_not,
        not_not, Bool.decide_eq_true, Bool.false_eq_true, Bool.true_eq_false,
        not_false_eq_true, not_true_eq_false, and_true, true_and, and_false, false_and,
        or_true, true_or, or_false, false_or, not_true, not_false_iff, iff_self, true_iff,
        iff_true, false_iff, iff_false, ite_self, decide_eq_decide, decide_False,
        decide_True, Bool.not_true, Bool.not_false]
  have y3 : (fast_pow.L_2TAG_PACKET_32_0_2_3 cpu (fast_pow.L_2TAG_PACKET_32_0_2_2 cpu (fast_pow.L_2TAG_PACKET_32_0_2_1 cpu s))).get (.m 16) = y := by
    set_option maxRecDepth 8000 in
    simp only [
        ↓reduceIte, ↓fast_pow.pow_L_2TAG_PACKET_32_0_2_3_sem,
        ↓fast_pow.pow_L_2TAG_PACKET_32_0_2_2_sem,
        ↓fast_pow.pow_L_2TAG_PACKET_32_0_2_1_sem, hy, ↓Machine.get_setx,
        ↓Machine.get_setg, ↓Machine.get_setstk, ↓Machine.get_enter, ↓Machine.get_setFlags,
        ↓Machine.trace_set, ↓Machine.get_ite, ↓Machine.trace_ite, ↓Machine.obs_eq_get,
        ↓Machine.flags_get, ↓Machine.flags_trace, ↓sem_get_1, ↓sem_get_2, ↓sem_get_3,
        ↓sem_get_4, ↓sem_trace_1, ↓sem_trace_2, ↓sem_trace_3, ↓sem_trace_4, ↓load_const,
        cc_iff, ea, and_imm, and_imm_left, ilog2_lit, or_eq_zero, or_mod32, or_lt_2p31,
        Nat.mod_mod, Nat.zero_or, Nat.or_zero, Nat.sub_zero, Nat.add_mod_right, lane_eq,
        Machine.io_eq_get, Nat.xor_self, Loc.x.injEq, Loc.g.injEq, Loc.m.injEq,
        Bool.toNat_eq_zero, Bool.toNat_eq_one, Nat.reducePow, Nat.reduceMul,
        Nat.reduceMod, Nat.reduceAdd, Nat.reduceSub, Nat.reduceDiv, Nat.reduceEqDiff,
        Nat.reduceLTLE, Nat.reduceLeDiff, Nat.reduceLT, Nat.reduceGT, Nat.reduceOr,
        Nat.reduceXor, reduceCtorEq, Bool.not_eq_true', Bool.not_eq_true,
        decide_eq_true_eq, decide_eq_false_iff_not, Bool.and_eq_true, Bool.or_eq_true,
        bne_iff_ne, beq_iff_eq, ne_eq, Bool.not_eq_false', Bool.not_eq_false, decide_not,
        not_not, Bool.decide_eq_true, Bool.false_eq_true, Bool.true_eq_false,
        not_false_eq_true, not_true_eq_false, and_true, true_and, and_false, false_and,
        or_true, true_or, or_false, false_or, not_true, not_false_iff, iff_self, true_iff,
        iff_true, false_iff, iff_false, ite_self, decide_eq_decide, decide_False,
        decide_True, Bool.not_true, Bool.not_false]
  have t4 : (fast_pow.L_2TAG_PACKET_32_0_2_4 cpu (fast_pow.L_2TAG_PACKET_32_0_2_3 cpu (fast_pow.L_2TAG_PACKET_32_0_2_2 cpu (fast_pow.L_2TAG_PACKET_32_0_2_1 cpu s)))).trace = Label.L_2TAG_PACKET_32_0_2 :: s.trace := by
    rw [fast_pow.pow_L_2TAG_PACKET_32_0_2_4_trace, fast_pow.pow_L_2TAG_PACKET_32_0_2_3_trace, fast_pow.pow_L_2TAG_PACKET_32_0_2_2_trace, fast_pow.pow_L_2TAG_PACKET_32_0_2_1_trace]
  have x4 : (fast_pow.L_2TAG_PACKET_32_0_2_4 cpu (fast_pow.L_2TAG_PACKET_32_0_2_3 cpu (fast_pow.L_2TAG_PACKET_32_0_2_2 cpu (fast_pow.L_2TAG_PACKET_32_0_2_1 cpu s)))).get (.m 8) = x := by
    set_option maxRecDepth 8000 in
    simp only [
        ↓reduceIte, ↓fast_pow.pow_L_2TAG_PACKET_32_0_2_4_sem,
        ↓fast_pow.pow_L_2TAG_PACKET_32_0_2_3_sem,
        ↓fast_pow.pow_L_2TAG_PACKET_32_0_2_2_sem,
        ↓fast_pow.pow_L_2TAG_PACKET_32_0_2_1_sem, hx, ↓Machine.get_setx,
        ↓Machine.get_setg, ↓Machine.get_setstk, ↓Machine.get_enter, ↓Machine.get_setFlags,
        ↓Machine.trace_set, ↓Machine.get_ite, ↓Machine.trace_ite, ↓Machine.obs_eq_get,
        ↓Machine.flags_get, ↓Machine.flags_trace, ↓sem_get_1, ↓sem_get_2, ↓sem_get_3,
        ↓sem_get_4, ↓sem_trace_1, ↓sem_trace_2, ↓sem_trace_3, ↓sem_trace_4, ↓load_const,
        cc_iff, ea, and_imm, and_imm_left, ilog2_lit, or_eq_zero, or_mod32, or_lt_2p31,
        Nat.mod_mod, Nat.zero_or, Nat.or_zero, Nat.sub_zero, Nat.add_mod_right, lane_eq,
        Machine.io_eq_get, Nat.xor_self, Loc.x.injEq, Loc.g.injEq, Loc.m.injEq,
        Bool.toNat_eq_zero, Bool.toNat_eq_one, Nat.reducePow, Nat.reduceMul,
        Nat.reduceMod, Nat.reduceAdd, Nat.reduceSub, Nat.reduceDiv, Nat.reduceEqDiff,
        Nat.reduceLTLE, Nat.reduceLeDiff, Nat.reduceLT, Nat.reduceGT, Nat.reduceOr,
        Nat.reduceXor, reduceCtorEq, Bool.not_eq_true', Bool.not_eq_true,
        decide_eq_true_eq, decide_eq_false_iff_not, Bool.and_eq_true, Bool.or_eq_true,
        bne_iff_ne, beq_iff_eq, ne_eq, Bool.not_eq_false', Bool.not_eq_false, decide_not,
        not_not, Bool.decide_eq_true, Bool.false_eq_true, Bool.true_eq_false,
        not_false_eq_true, not_true_eq_false, and_true, true_and, and_false, false_and,
        or_true, true_or, or_false, false_or, not_true, not_false_iff, iff_self, true_iff,
        iff_true, false_iff, iff_false, ite_self, decide_eq_decide, decide_False,
        decide_True, Bool.not_true, Bool.not_false]
  have y4 : (fast_pow.L_2TAG_PACKET_32_0_2_4 cpu (fast_pow.L_2TAG_PACKET_32_0_2_3 cpu (fast_pow.L_2TAG_PACKET_32_0_2_2 cpu (fast_pow.L_2TAG_PACKET_32_0_2_1 cpu s)))).get (.m 16) = y := by
    set_option maxRecDepth 8000 in
    simp only [
        ↓reduceIte, ↓fast_pow.pow_L_2TAG_PACKET_32_0_2_4_sem,
        ↓fast_pow.pow_L_2TAG_PACKET_32_0_2_3_sem,
        ↓fast_pow.pow_L_2TAG_PACKET_32_0_2_2_sem,
        ↓fast_pow.pow_L_2TAG_PACKET_32_0_2_1_sem, hy, ↓Machine.get_setx,
        ↓Machine.get_setg, ↓Machine.get_setstk, ↓Machine.get_enter, ↓Machine.get_setFlags,
        ↓Machine.trace_set, ↓Machine.get_ite, ↓Machine.trace_ite, ↓Machine.obs_eq_get,
        ↓Machine.flags_get, ↓Machine.flags_trace, ↓sem_get_1, ↓sem_get_2, ↓sem_get_3,
        ↓sem_get_4, ↓sem_trace_1, ↓sem_trace_2, ↓sem_trace_3, ↓sem_trace_4, ↓load_const,
        cc_iff, ea, and_imm, and_imm_left, ilog2_lit, or_eq_zero, or_mod32, or_lt_2p31,
        Nat.mod_mod, Nat.zero_or, Nat.or_zero, Nat.sub_zero, Nat.add_mod_right, lane_eq,
        Machine.io_eq_get, Nat.xor_self, Loc.x.injEq, Loc.g.injEq, Loc.m.injEq,
        Bool.toNat_eq_zero, Bool.toNat_eq_one, Nat.reducePow, Nat.reduceMul,
        Nat.reduceMod, Nat.reduceAdd, Nat.reduceSub, Nat.reduceDiv, Nat.reduceEqDiff,
        Nat.reduceLTLE, Nat.reduceLeDiff, Nat.reduceLT, Nat.reduceGT, Nat.reduceOr,
        Nat.reduceXor, reduceCtorEq, Bool.not_eq_true', Bool.not_eq_true,
        decide_eq_true_eq, decide_eq_false_iff_not, Bool.and_eq_true, Bool.or_eq_true,
        bne_iff_ne, beq_iff_eq, ne_eq, Bool.not_eq_false', Bool.not_eq_false, decide_not,
        not_not, Bool.decide_eq_true, Bool.false_eq_true, Bool.true_eq_false,
        not_false_eq_true, not_true_eq_false, and_true, true_and, and_false, false_and,
        or_true, true_or, or_false, false_or, not_true, not_false_iff, iff_self, true_iff,
        iff_true, false_iff, iff_false, ite_self, decide_eq_decide, decide_False,
        decide_True, Bool.not_true, Bool.not_false]
  rw [fast_pow.pow_L_2TAG_PACKET_32_0_2_eq]
  split_ifs
  · exact either_step cpu _ s _ _ _ _
      (pow_L33_either cpu _ x y x1 hx64 hfin hnz y1) t1 (by decide) (by decide)
  · exact Or.inr (avoid_step _ s _ _ (avoid_of_descends _ _ _ _
      (fast_pow.pow_L_2TAG_PACKET_34_0_2_descends _ pow_rank_main cpu _) (by decide)) t2 (by decide))
  · exact either_step cpu _ s _ _ _ _
      (pow_L35_either cpu _ x y x3 hx64 hfin hnz y3) t3 (by decide) (by decide)
  · exact either_step cpu _ s _ _ _ _
      (pow_L36_either cpu _ x y x4 hx64 hfin hnz y4) t4 (by decide) (by decide)

/-- From `L_2TAG_PACKET_7_0_2` (finite base with the sign bit set) the run either enters
`L_2TAG_PACKET_4_0_2` with the exponent of the base in `eax` or never enters it. -/
theorem pow_L7_either (cpu : Cpu) (s : Machine) (x y : Nat) (hx : s.get (.m 8) = x)
    (hx64 : x < 18446744073709551616) (hfin : x / 4503599627370496 % 2048 < 2047)
    (hy : s.get (.m 16) = y) :
    fast_pow.ReachesMain cpu (fast_pow.L_2TAG_PACKET_7_0_2 cpu s) s (f64Ilogb x) y ∨
      fast_pow.AvoidsMain (fast_pow.L_2TAG_PACKET_7_0_2 cpu s) s := by
  have t1 : (fast_pow.L_2TAG_PACKET_7_0_2_1 cpu s).trace = Label.L_2TAG_PACKET_7_0_2 :: s.trace := by
    rw [fast_pow.pow_L_2TAG_PACKET_7_0_2_1_trace]
  have t2 : (fast_pow.L_2TAG_PACKET_7_0_2_2 cpu (fast_pow.L_2TAG_PACKET_7_0_2_1 cpu s)).trace = Label.L_2TAG_PACKET_7_0_2 :: s.trace := by
    rw [fast_pow.pow_L_2TAG_PACKET_7_0_2_2_trace, fast_pow.pow_L_2TAG_PACKET_7_0_2_1_trace]
  have t3 : (fast_pow.L_2TAG_PACKET_7_0_2_3 cpu (fast_pow.L_2TAG_PACKET_7_0_2_2 cpu (fast_pow.L_2TAG_PACKET_7_0_2_1 cpu s))).trace = Label.L_2TAG_PACKET_7_0_2 :: s.trace := by
    rw [fast_pow.pow_L_2TAG_PACKET_7_0_2_3_trace, fast_pow.pow_L_2TAG_PACKET_7_0_2_2_trace, fast_pow.pow_L_2TAG_PACKET_7_0_2_1_trace]
  have t4 : (fast_pow.L_2TAG_PACKET_7_0_2_4 cpu (fast_pow.L_2TAG_PACKET_7_0_2_3 cpu (fast_pow.L_2TAG_PACKET_7_0_2_2 cpu (fast_pow.L_2TAG_PACKET_7_0_2_1 cpu s)))).trace = Label.L_2TAG_PACKET_7_0_2 :: s.trace := by
    rw [fast_pow.pow_L_2TAG_PACKET_7_0_2_4_trace, fast_pow.pow_L_2TAG_PACKET_7_0_2_3_trace, fast_pow.pow_L_2TAG_PACKET_7_0_2_2_trace, fast_pow.pow_L_2TAG_PACKET_7_0_2_1_trace]
  have x4 : (fast_pow.L_2TAG_PACKET_7_0_2_4 cpu (fast_pow.L_2TAG_PACKET_7_0_2_3 cpu (fast_pow.L_2TAG_PACKET_7_0_2_2 cpu (fast_pow.L_2TAG_PACKET_7_0_2_1 cpu s)))).get (.m 8) = x := by
    set_option maxRecDepth 8000 in
    simp only [
        ↓reduceIte, ↓fast_pow.pow_L_2TAG_PACKET_7_0_2_4_sem,
        ↓fast_pow.pow_L_2TAG_PACKET_7_0_2_3_sem, ↓fast_pow.pow_L_2TAG_PACKET_7_0_2_2_sem,
        ↓fast_pow.pow_L_2TAG_PACKET_7_0_2_1_sem, hx, ↓Machine.get_setx, ↓Machine.get_setg,
        ↓Machine.get_setstk, ↓Machine.get_enter, ↓Machine.get_setFlags,
        ↓Machine.trace_set, ↓Machine.get_ite, ↓Machine.trace_ite, ↓Machine.obs_eq_get,
        ↓Machine.flags_get, ↓Machine.flags_trace, ↓sem_get_1, ↓sem_get_2, ↓sem_get_3,
        ↓sem_get_4, ↓sem_trace_1, ↓sem_trace_2, ↓sem_trace_3, ↓sem_trace_4, ↓load_const,
        cc_iff, ea, and_imm, and_imm_left, ilog2_lit, or_eq_zero, or_mod32, or_lt_2p31,
        Nat.mod_mod, Nat.zero_or, Nat.or_zero, Nat.sub_zero, Nat.add_mod_right, lane_eq,
        Machine.io_eq_get, Nat.xor_self, Loc.x.injEq, Loc.g.injEq, Loc.m.injEq,
        Bool.toNat_eq_zero, Bool.toNat_eq_one, Nat.reducePow, Nat.reduceMul,
        Nat.reduceMod, Nat.reduceAdd, Nat.reduceSub, Nat.reduceDiv, Nat.reduceEqDiff,
        Nat.reduceLTLE, Nat.reduceLeDiff, Nat.reduceLT, Nat.reduceGT, Nat.reduceOr,
        Nat.reduceXor, reduceCtorEq, Bool.not_eq_true', Bool.not_eq_true,
        decide_eq_true_eq, decide_eq_false_iff_not, Bool.and_eq_true, Bool.or_eq_true,
        bne_iff_ne, beq_iff_eq, ne_eq, Bool.not_eq_false', Bool.not_eq_false, decide_not,
        not_not, Bool.decide_eq_true, Bool.false_eq_true, Bool.true_eq_false,
        not_false_eq_true, not_true_eq_false, and_true, true_and, and_false, false_and,
        or_true, true_or, or_false, false_or, not_true, not_false_iff, iff_self, true_iff,
        iff_true, false_iff, iff_false, ite_self, decide_eq_decide, decide_False,
        decide_True, Bool.not_true, Bool.not_false]
  have y4 : (fast_pow.L_2TAG_PACKET_7_0_2_4 cpu (fast_pow.L_2TAG_PACKET_7_0_2_3 cpu (fast_pow.L_2TAG_PACKET_7_0_2_2 cpu (fast_pow.L_2TAG_PACKET_7_0_2_1 cpu s)))).get (.m 16) = y := by
    set_option maxRecDepth 8000 in
    simp only [
        ↓reduceIte, ↓fast_pow.pow_L_2TAG_PACKET_7_0_2_4_sem,
        ↓fast_pow.pow_L_2TAG_PACKET_7_0_2_3_sem, ↓fast_pow.pow_L_2TAG_PACKET_7_0_2_2_sem,
        ↓fast_pow.pow_L_2TAG_PACKET_7_0_2_1_sem, hy, ↓Machine.get_setx, ↓Machine.get_setg,
        ↓Machine.get_setstk, ↓Machine.get_enter, ↓Machine.get_setFlags,
        ↓Machine.trace_set, ↓Machine.get_ite, ↓Machine.trace_ite, ↓Machine.obs_eq_get,
        ↓Machine.flags_get, ↓Machine.flags_trace, ↓sem_get_1, ↓sem_get_2, ↓sem_get_3,
        ↓sem_get_4, ↓sem_trace_1, ↓sem_trace_2, ↓sem_trace_3, ↓sem_trace_4, ↓load_const,
        cc_iff, ea, and_imm, and_imm_left, ilog2_lit, or_eq_zero, or_mod32, or_lt_2p31,
        Nat.mod_mod, Nat.zero_or, Nat.or_zero, Nat.sub_zero, Nat.add_mod_right, lane_eq,
        Machine.io_eq_get, Nat.xor_self, Loc.x.injEq, Loc.g.injEq, Loc.m.injEq,
        Bool.toNat_eq_zero, Bool.toNat_eq_one, Nat.reducePow, Nat.reduceMul,
        Nat.reduceMod, Nat.reduceAdd, Nat.reduceSub, Nat.reduceDiv, Nat.reduceEqDiff,
        Nat.reduceLTLE, Nat.reduceLeDiff, Nat.reduceLT, Nat.reduceGT, Nat.reduceOr,
        Nat.reduceXor, reduceCtorEq, Bool.not_eq_true', Bool.not_eq_true,
        decide_eq_true_eq, decide_eq_false_iff_not, Bool.and_eq_true, Bool.or_eq_true,
        bne_iff_ne, beq_iff_eq, ne_eq, Bool.not_eq_false', Bool.not_eq_false, decide_not,
        not_not, Bool.decide_eq_true, Bool.false_eq_true, Bool.true_eq_false,
        not_false_eq_true, not_true_eq_false, and_true, true_and, and_false, false_and,
        or_true, true_or, or_false, false_or, not_true, not_false_iff, iff_self, true_iff,
        iff_true, false_iff, iff_false, ite_self, decide_eq_decide, decide_False,
        decide_True, Bool.not_true, Bool.not_false]
  have t5 : (fast_pow.L_2TAG_PACKET_7_0_2_5 cpu (fast_pow.L_2TAG_PACKET_7_0_2_4 cpu (fast_pow.L_2TAG_PACKET_7_0_2_3 cpu (fast_pow.L_2TAG_PACKET_7_0_2_2 cpu (fast_pow.L_2TAG_PACKET_7_0_2_1 cpu s))))).trace = Label.L_2TAG_PACKET_7_0_2 :: s.trace := by
    rw [fast_pow.pow_L_2TAG_PACKET_7_0_2_5_trace, fast_pow.pow_L_2TAG_PACKET_7_0_2_4_trace, fast_pow.pow_L_2TAG_PACKET_7_0_2_3_trace, fast_pow.pow_L_2TAG_PACKET_7_0_2_2_trace, fast_pow.pow_L_2TAG_PACKET_7_0_2_1_trace]
  have x5 : (fast_pow.L_2TAG_PACKET_7_0_2_5 cpu (fast_pow.L_2TAG_PACKET_7_0_2_4 cpu (fast_pow.L_2TAG_PACKET_7_0_2_3 cpu (fast_pow.L_2TAG_PACKET_7_0_2_2 cpu (fast_pow.L_2TAG_PACKET_7_0_2_1 cpu s))))).get (.m 8) = x := by
    set_option maxRecDepth 8000 in
    simp only [
        ↓reduceIte, ↓fast_pow.pow_L_2TAG_PACKET_7_0_2_5_sem,
        ↓fast_pow.pow_L_2TAG_PACKET_7_0_2_4_sem, ↓fast_pow.pow_L_2TAG_PACKET_7_0_2_3_sem,
        ↓fast_pow.pow_L_2TAG_PACKET_7_0_2_2_sem, ↓fast_pow.pow_L_2TAG_PACKET_7_0_2_1_sem,
        hx, ↓Machine.get_setx, ↓Machine.get_setg, ↓Machine.get_setstk, ↓Machine.get_enter,
        ↓Machine.get_setFlags, ↓Machine.trace_set, ↓Machine.get_ite, ↓Machine.trace_ite,
        ↓Machine.obs_eq_get, ↓Machine.flags_get, ↓Machine.flags_trace, ↓sem_get_1,
        ↓sem_get_2, ↓sem_get_3, ↓sem_get_4, ↓sem_trace_1, ↓sem_trace_2, ↓sem_trace_3,
        ↓sem_trace_4, ↓load_const, cc_iff, ea, and_imm, and_imm_left, ilog2_lit,
        or_eq_zero, or_mod32, or_lt_2p31, Nat.mod_mod, Nat.zero_or, Nat.or_zero,
        Nat.sub_zero, Nat.add_mod_right, lane_eq, Machine.io_eq_get, Nat.xor_self,
        Loc.x.injEq, Loc.g.injEq, Loc.m.injEq, Bool.toNat_eq_zero, Bool.toNat_eq_one,
        Nat.reducePow, Nat.reduceMul, Nat.reduceMod, Nat.reduceAdd, Nat.reduceSub,
        Nat.reduceDiv, Nat.reduceEqDiff, Nat.reduceLTLE, Nat.reduceLeDiff, Nat.reduceLT,
        Nat.reduceGT, Nat.reduceOr, Nat.reduceXor, reduceCtorEq, Bool.not_eq_true',
        Bool.not_eq_true, decide_eq_true_eq, decide_eq_false_iff_not, Bool.and_eq_true,
        Bool.or_eq_true, bne_iff_ne, beq_iff_eq, ne_eq, Bool.not_eq_false',
        Bool.not_eq_false, decide_not, not_not, Bool.decide_eq_true, Bool.false_eq_true,
        Bool.true_eq_false, not_false_eq_true, not_true_eq_false, and_true, true_and,
        and_false, false_and, or_true, true_or, or_false, false_or, not_true,
        not_false_iff, iff_self, true_iff, iff_true, false_iff, iff_false, ite_self,
        decide_eq_decide, decide_False, decide_True, Bool.not_true, Bool.not_false]
  have y5 : (fast_pow.L_2TAG_PACKET_7_0_2_5 cpu (fast_pow.L_2TAG_PACKET_7_0_2_4 cpu (fast_pow.L_2TAG_PACKET_7_0_2_3 cpu (fast_pow.L_2TAG_PACKET_7_0_2_2 cpu (fast_pow.L_2TAG_PACKET_7_0_2_1 cpu s))))).get (.m 16) = y := by
    set_option maxRecDepth 8000 in
    simp only [
        ↓reduceIte, ↓fast_pow.pow_L_2TAG_PACKET_7_0_2_5_sem,
        ↓fast_pow.pow_L_2TAG_PACKET_7_0_2_4_sem, ↓fast_pow.pow_L_2TAG_PACKET_7_0_2_3_sem,
        ↓fast_pow.pow_L_2TAG_PACKET_7_0_2_2_sem, ↓fast_pow.pow_L_2TAG_PACKET_7_0_2_1_sem,
        hy, ↓Machine.get_setx, ↓Machine.get_setg, ↓Machine.get_setstk, ↓Machine.get_enter,
        ↓Machine.get_setFlags, ↓Machine.trace_set, ↓Machine.get_ite, ↓Machine.trace_ite,
        ↓Machine.obs_eq_get, ↓Machine.flags_get, ↓Machine.flags_trace, ↓sem_get_1,
        ↓sem_get_2, ↓sem_get_3, ↓sem_get_4, ↓sem_trace_1, ↓sem_trace_2, ↓sem_trace_3,
        ↓sem_trace_4, ↓load_const, cc_iff, ea, and_imm, and_imm_left, ilog2_lit,
        or_eq_zero, or_mod32, or_lt_2p31, Nat.mod_mod, Nat.zero_or, Nat.or_zero,
        Nat.sub_zero, Nat.add_mod_right, lane_eq, Machine.io_eq_get, Nat.xor_self,
        Loc.x.injEq, Loc.g.injEq, Loc.m.injEq, Bool.toNat_eq_zero, Bool.toNat_eq_one,
        Nat.reducePow, Nat.reduceMul, Nat.reduceMod, Nat.reduceAdd, Nat.reduceSub,
        Nat.reduceDiv, Nat.reduceEqDiff, Nat.reduceLTLE, Nat.reduceLeDiff, Nat.reduceLT,
        Nat.reduceGT, Nat.reduceOr, Nat.reduceXor, reduceCtorEq, Bool.not_eq_true',
        Bool.not_eq_true, decide_eq_true_eq, decide_eq_false_iff_not, Bool.and_eq_true,
        Bool.or_eq_true, bne_iff_ne, beq_iff_eq, ne_eq, Bool.not_eq_false',
        Bool.not_eq_false, decide_not, not_not, Bool.decide_eq_true, Bool.false_eq_true,
        Bool.true_eq_false, not_false_eq_true, not_true_eq_false, and_true, true_and,
        and_false, false_and, or_true, true_or, or_false, false_or, not_true,
        not_false_iff, iff_self, true_iff, iff_true, false_iff, iff_false, ite_self,
        decide_eq_decide, decide_False, decide_True, Bool.not_true, Bool.not_false]
  have t6 : (fast_pow.L_2TAG_PACKET_7_0_2_6 cpu (fast_pow.L_2TAG_PACKET_7_0_2_5 cpu (fast_pow.L_2TAG_PACKET_7_0_2_4 cpu (fast_pow.L_2TAG_PACKET_7_0_2_3 cpu (fast_pow.L_2TAG_PACKET_7_0_2_2 cpu (fast_pow.L_2TAG_PACKET_7_0_2_1 cpu s)))))).trace = Label.L_2TAG_PACKET_7_0_2 :: s.trace := by
    rw [fast_pow.pow_L_2TAG_PACKET_7_0_2_6_trace, fast_pow.pow_L_2TAG_PACKET_7_0_2_5_trace, fast_pow.pow_L_2TAG_PACKET_7_0_2_4_trace, fast_pow.pow_L_2TAG_PACKET_7_0_2_3_trace, fast_pow.pow_L_2TAG_PACKET_7_0_2_2_trace, fast_pow.pow_L_2TAG_PACKET_7_0_2_1_trace]
  have t7 : (fast_pow.L_2TAG_PACKET_7_0_2_7 cpu (fast_pow.L_2TAG_PACKET_7_0_2_6 cpu (fast_pow.L_2TAG_PACKET_7_0_2_5 cpu (fast_pow.L_2TAG_PACKET_7_0_2_4 cpu (fast_pow.L_2TAG_PACKET_7_0_2_3 cpu (fast_pow.L_2TAG_PACKET_7_0_2_2 cpu (fast_pow.L_2TAG_PACKET_7_0_2_1 cpu s))))))).trace = Label.L_2TAG_PACKET_7_0_2 :: s.trace := by
    rw [fast_pow.pow_L_2TAG_PACKET_7_0_2_7_trace, fast_pow.pow_L_2TAG_PACKET_7_0_2_6_trace, fast_pow.pow_L_2TAG_PACKET_7_0_2_5_trace, fast_pow.pow_L_2TAG_PACKET_7_0_2_4_trace, fast_pow.pow_L_2TAG_PACKET_7_0_2_3_trace, fast_pow.pow_L_2TAG_PACKET_7_0_2_2_trace, fast_pow.pow_L_2TAG_PACKET_7_0_2_1_trace]
  have t8 : (fast_pow.L_2TAG_PACKET_7_0_2_8 cpu (fast_pow.L_2TAG_PACKET_7_0_2_7 cpu (fast_pow.L_2TAG_PACKET_7_0_2_6 cpu (fast_pow.L_2TAG_PACKET_7_0_2_5 cpu (fast_pow.L_2TAG_PACKET_7_0_2_4 cpu (fast_pow.L_2TAG_PACKET_7_0_2_3 cpu (fast_pow.L_2TAG_PACKET_7_0_2_2 cpu (fast_pow.L_2TAG_PACKET_7_0_2_1 cpu s)))))))).trace = Label.L_2TAG_PACKET_7_0_2 :: s.trace := by
    rw [fast_pow.pow_L_2TAG_PACKET_7_0_2_8_trace, fast_pow.pow_L_2TAG_PACKET_7_0_2_7_trace, fast_pow.pow_L_2TAG_PACKET_7_0_2_6_trace, fast_pow.pow_L_2TAG_PACKET_7_0_2_5_trace, fast_pow.pow_L_2TAG_PACKET_7_0_2_4_trace, fast_pow.pow_L_2TAG_PACKET_7_0_2_3_trace, fast_pow.pow_L_2TAG_PACKET_7_0_2_2_trace, fast_pow.pow_L_2TAG_PACKET_7_0_2_1_trace]
  have x8 : (fast_pow.L_2TAG_PACKET_7_0_2_8 cpu (fast_pow.L_2TAG_PACKET_7_0_2_7 cpu (fast_pow.L_2TAG_PACKET_7_0_2_6 cpu (fast_pow.L_2TAG_PACKET_7_0_2_5 cpu (fast_pow.L_2TAG_PACKET_7_0_2_4 cpu (fast_pow.L_2TAG_PACKET_7_0_2_3 cpu (fast_pow.L_2TAG_PACKET_7_0_2_2 cpu (fast_pow.L_2TAG_PACKET_7_0_2_1 cpu s)))))))).get (.m 8) = x := by
    set_option maxRecDepth 8000 in
    simp only [
        ↓reduceIte, ↓fast_pow.pow_L_2TAG_PACKET_7_0_2_8_sem,
        ↓fast_pow.pow_L_2TAG_PACKET_7_0_2_7_sem, ↓fast_pow.pow_L_2TAG_PACKET_7_0_2_6_sem,
        ↓fast_pow.pow_L_2TAG_PACKET_7_0_2_5_sem, ↓fast_pow.pow_L_2TAG_PACKET_7_0_2_4_sem,
        ↓fast_pow.pow_L_2TAG_PACKET_7_0_2_3_sem, ↓fast_pow.pow_L_2TAG_PACKET_7_0_2_2_sem,
        ↓fast_pow.pow_L_2TAG_PACKET_7_0_2_1_sem, hx, ↓Machine.get_setx, ↓Machine.get_setg,
        ↓Machine.get_setstk, ↓Machine.get_enter, ↓Machine.get_setFlags,
        ↓Machine.trace_set, ↓Machine.get_ite, ↓Machine.trace_ite, ↓Machine.obs_eq_get,
        ↓Machine.flags_get, ↓Machine.flags_trace, ↓sem_get_1, ↓sem_get_2, ↓sem_get_3,
        ↓sem_get_4, ↓sem_trace_1, ↓sem_trace_2, ↓sem_trace_3, ↓sem_trace_4, ↓load_const,
        cc_iff, ea, and_imm, and_imm_left, ilog2_lit, or_eq_zero, or_mod32, or_lt_2p31,
        Nat.mod_mod, Nat.zero_or, Nat.or_zero, Nat.sub_zero, Nat.add_mod_right, lane_eq,
        Machine.io_eq_get, Nat.xor_self, Loc.x.injEq, Loc.g.injEq, Loc.m.injEq,
        Bool.toNat_eq_zero, Bool.toNat_eq_one, Nat.reducePow, Nat.reduceMul,
        Nat.reduceMod, Nat.reduceAdd, Nat.reduceSub, Nat.reduceDiv, Nat.reduceEqDiff,
        Nat.reduceLTLE, Nat.reduceLeDiff, Nat.reduceLT, Nat.reduceGT, Nat.reduceOr,
        Nat.reduceXor, reduceCtorEq, Bool.not_eq_true', Bool.not_eq_true,
        decide_eq_true_eq, decide_eq_false_iff_not, Bool.and_eq_true, Bool.or_eq_true,
        bne_iff_ne, beq_iff_eq, ne_eq, Bool.not_eq_false', Bool.not_eq_false, decide_not,
        not_not, Bool.decide_eq_true, Bool.false_eq_true, Bool.true_eq_false,
        not_false_eq_true, not_true_eq_false, and_true, true_and, and_false, false_and,
        or_true, true_or, or_false, false_or, not_true, not_false_iff, iff_self, true_iff,
        iff_true, false_iff, iff_false, ite_self, decide_eq_decide, decide_False,
        decide_True, Bool.not_true, Bool.not_false]
  have y8 : (fast_pow.L_2TAG_PACKET_7_0_2_8 cpu (fast_pow.L_2TAG_PACKET_7_0_2_7 cpu (fast_pow.L_2TAG_PACKET_7_0_2_6 cpu (fast_pow.L_2TAG_PACKET_7_0_2_5 cpu (fast_pow.L_2TAG_PACKET_7_0_2_4 cpu (fast_pow.L_2TAG_PACKET_7_0_2_3 cpu (fast_pow.L_2TAG_PACKET_7_0_2_2 cpu (fast_pow.L_2TAG_PACKET_7_0_2_1 cpu s)))))))).get (.m 16) = y := by
    set_option maxRecDepth 8000 in
    simp only [
        ↓reduceIte, ↓fast_pow.pow_L_2TAG_PACKET_7_0_2_8_sem,
        ↓fast_pow.pow_L_2TAG_PACKET_7_0_2_7_sem, ↓fast_pow.pow_L_2TAG_PACKET_7_0_2_6_sem,
        ↓fast_pow.pow_L_2TAG_PACKET_7_0_2_5_sem, ↓fast_pow.pow_L_2TAG_PACKET_7_0_2_4_sem,
        ↓fast_pow.pow_L_2TAG_PACKET_7_0_2_3_sem, ↓fast_pow.pow_L_2TAG_PACKET_7_0_2_2_sem,
        ↓fast_pow.pow_L_2TAG_PACKET_7_0_2_1_sem, hy, ↓Machine.get_setx, ↓Machine.get_setg,
        ↓Machine.get_setstk, ↓Machine.get_enter, ↓Machine.get_setFlags,
        ↓Machine.trace_set, ↓Machine.get_ite, ↓Machine.trace_ite, ↓Machine.obs_eq_get,
        ↓Machine.flags_get, ↓Machine.flags_trace, ↓sem_get_1, ↓sem_get_2, ↓sem_get_3,
        ↓sem_get_4, ↓sem_trace_1, ↓sem_trace_2, ↓sem_trace_3, ↓sem_trace_4, ↓load_const,
        cc_iff, ea, and_imm, and_imm_left, ilog2_lit, or_eq_zero, or_mod32, or_lt_2p31,
        Nat.mod_mod, Nat.zero_or, Nat.or_zero, Nat.sub_zero, Nat.add_mod_right, lane_eq,
        Machine.io_eq_get, Nat.xor_self, Loc.x.injEq, Loc.g.injEq, Loc.m.injEq,
        Bool.toNat_eq_zero, Bool.toNat_eq_one, Nat.reducePow, Nat.reduceMul,
        Nat.reduceMod, Nat.reduceAdd, Nat.reduceSub, Nat.reduceDiv, Nat.reduceEqDiff,
        Nat.reduceLTLE, Nat.reduceLeDiff, Nat.reduceLT, Nat.reduceGT, Nat.reduceOr,
        Nat.reduceXor, reduceCtorEq, Bool.not_eq_true', Bool.not_eq_true,
        decide_eq_true_eq, decide_eq_false_iff_not, Bool.and_eq_true, Bool.or_eq_true,
        bne_iff_ne, beq_iff_eq, ne_eq, Bool.not_eq_false', Bool.not_eq_false, decide_not,
        not_not, Bool.decide_eq_true, Bool.false_eq_true, Bool.true_eq_false,
        not_false_eq_true, not_true_eq_false, and_true, true_and, and_false, false_and,
        or_true, true_or, or_false, false_or, not_true, not_false_iff, iff_self, true_iff,
        iff_true, false_iff, iff_false, ite_self, decide_eq_decide, decide_False,
        decide_True, Bool.not_true, Bool.not_false]
  have t9 : (fast_pow.L_2TAG_PACKET_7_0_2_9 cpu (fast_pow.L_2TAG_PACKET_7_0_2_8 cpu (fast_pow.L_2TAG_PACKET_7_0_2_7 cpu (fast_pow.L_2TAG_PACKET_7_0_2_6 cpu (fast_pow.L_2TAG_PACKET_7_0_2_5 cpu (fast_pow.L_2TAG_PACKET_7_0_2_4 cpu (fast_pow.L_2TAG_PACKET_7_0_2_3 cpu (fast_pow.L_2TAG_PACKET_7_0_2_2 cpu (fast_pow.L_2TAG_PACKET_7_0_2_1 cpu s))))))))).trace = Label.L_2TAG_PACKET_7_0_2 :: s.trace := by
    rw [fast_pow.pow_L_2TAG_PACKET_7_0_2_9_trace, fast_pow.pow_L_2TAG_PACKET_7_0_2_8_trace, fast_pow.pow_L_2TAG_PACKET_7_0_2_7_trace, fast_pow.pow_L_2TAG_PACKET_7_0_2_6_trace, fast_pow.pow_L_2TAG_PACKET_7_0_2_5_trace, fast_pow.pow_L_2TAG_PACKET_7_0_2_4_trace, fast_pow.pow_L_2TAG_PACKET_7_0_2_3_trace, fast_pow.pow_L_2TAG_PACKET_7_0_2_2_trace, fast_pow.pow_L_2TAG_PACKET_7_0_2_1_trace]
  have x9 : (fast_pow.L_2TAG_PACKET_7_0_2_9 cpu (fast_pow.L_2TAG_PACKET_7_0_2_8 cpu (fast_pow.L_2TAG_PACKET_7_0_2_7 cpu (fast_pow.L_2TAG_PACKET_7_0_2_6 cpu (fast_pow.L_2TAG_PACKET_7_0_2_5 cpu (fast_pow.L_2TAG_PACKET_7_0_2_4 cpu (fast_pow.L_2TAG_PACKET_7_0_2_3 cpu (fast_pow.L_2TAG_PACKET_7_0_2_2 cpu (fast_pow.L_2TAG_PACKET_7_0_2_1 cpu s))))))))).get (.m 8) = x := by
    set_option maxRecDepth 8000 in
    simp only [
        ↓reduceIte, ↓fast_pow.pow_L_2TAG_PACKET_7_0_2_9_sem,
        ↓fast_pow.pow_L_2TAG_PACKET_7_0_2_8_sem, ↓fast_pow.pow_L_2TAG_PACKET_7_0_2_7_sem,
        ↓fast_pow.pow_L_2TAG_PACKET_7_0_2_6_sem, ↓fast_pow.pow_L_2TAG_PACKET_7_0_2_5_sem,
        ↓fast_pow.pow_L_2TAG_PACKET_7_0_2_4_sem, ↓fast_pow.pow_L_2TAG_PACKET_7_0_2_3_sem,
        ↓fast_pow.pow_L_2TAG_PACKET_7_0_2_2_sem, ↓fast_pow.pow_L_2TAG_PACKET_7_0_2_1_sem,
        hx, ↓Machine.get_setx, ↓Machine.get_setg, ↓Machine.get_setstk, ↓Machine.get_enter,
        ↓Machine.get_setFlags, ↓Machine.trace_set, ↓Machine.get_ite, ↓Machine.trace_ite,
        ↓Machine.obs_eq_get, ↓Machine.flags_get, ↓Machine.flags_trace, ↓sem_get_1,
        ↓sem_get_2, ↓sem_get_3, ↓sem_get_4, ↓sem_trace_1, ↓sem_trace_2, ↓sem_trace_3,
        ↓sem_trace_4, ↓load_const, cc_iff, ea, and_imm, and_imm_left, ilog2_lit,
        or_eq_zero, or_mod32, or_lt_2p31, Nat.mod_mod, Nat.zero_or, Nat.or_zero,
        Nat.sub_zero, Nat.add_mod_right, lane_eq, Machine.io_eq_get, Nat.xor_self,
        Loc.x.injEq, Loc.g.injEq, Loc.m.injEq, Bool.toNat_eq_zero, Bool.toNat_eq_one,
        Nat.reducePow, Nat.reduceMul, Nat.reduceMod, Nat.reduceAdd, Nat.reduceSub,
        Nat.reduceDiv, Nat.reduceEqDiff, Nat.reduceLTLE, Nat.reduceLeDiff, Nat.reduceLT,
        Nat.reduceGT, Nat.reduceOr, Nat.reduceXor, reduceCtorEq, Bool.not_eq_true',
        Bool.not_eq_true, decide_eq_true_eq, decide_eq_false_iff_not, Bool.and_eq_true,
        Bool.or_eq_true, bne_iff_ne, beq_iff_eq, ne_eq, Bool.not_eq_false',
        Bool.not_eq_false, decide_not, not_not, Bool.decide_eq_true, Bool.false_eq_true,
        Bool.true_eq_false, not_false_eq_true, not_true_eq_false, and_true, true_and,
        and_false, false_and, or_true, true_or, or_false, false_or, not_true,
        not_false_iff, iff_self, true_iff, iff_true, false_iff, iff_false, ite_self,
        decide_eq_decide, decide_False, decide_True, Bool.not_true, Bool.not_false]
  have y9 : (fast_pow.L_2TAG_PACKET_7_0_2_9 cpu (fast_pow.L_2TAG_PACKET_7_0_2_8 cpu (fast_pow.L_2TAG_PACKET_7_0_2_7 cpu (fast_pow.L_2TAG_PACKET_7_0_2_6 cpu (fast_pow.L_2TAG_PACKET_7_0_2_5 cpu (fast_pow.L_2TAG_PACKET_7_0_2_4 cpu (fast_pow.L_2TAG_PACKET_7_0_2_3 cpu (fast_pow.L_2TAG_PACKET_7_0_2_2 cpu (fast_pow.L_2TAG_PACKET_7_0_2_1 cpu s))))))))).get (.m 16) = y := by
    set_option maxRecDepth 8000 in
    simp only [
        ↓reduceIte, ↓fast_pow.pow_L_2TAG_PACKET_7_0_2_9_sem,
        ↓fast_pow.pow_L_2TAG_PACKET_7_0_2_8_sem, ↓fast_pow.pow_L_2TAG_PACKET_7_0_2_7_sem,
        ↓fast_pow.pow_L_2TAG_PACKET_7_0_2_6_sem, ↓fast_pow.pow_L_2TAG_PACKET_7_0_2_5_sem,
        ↓fast_pow.pow_L_2TAG_PACKET_7_0_2_4_sem, ↓fast_pow.pow_L_2TAG_PACKET_7_0_2_3_sem,
        ↓fast_pow.pow_L_2TAG_PACKET_7_0_2_2_sem, ↓fast_pow.pow_L_2TAG_PACKET_7_0_2_1_sem,
        hy, ↓Machine.get_setx, ↓Machine.get_setg, ↓Machine.get_setstk, ↓Machine.get_enter,
        ↓Machine.get_setFlags, ↓Machine.trace_set, ↓Machine.get_ite, ↓Machine.trace_ite,
        ↓Machine.obs_eq_get, ↓Machine.flags_get, ↓Machine.flags_trace, ↓sem_get_1,
        ↓sem_get_2, ↓sem_get_3, ↓sem_get_4, ↓sem_trace_1, ↓sem_trace_2, ↓sem_trace_3,
        ↓sem_trace_4, ↓load_const, cc_iff, ea, and_imm, and_imm_left, ilog2_lit,
        or_eq_zero, or_mod32, or_lt_2p31, Nat.mod_mod, Nat.zero_or, Nat.or_zero,
        Nat.sub_zero, Nat.add_mod_right, lane_eq, Machine.io_eq_get, Nat.xor_self,
        Loc.x.injEq, Loc.g.injEq, Loc.m.injEq, Bool.toNat_eq_zero, Bool.toNat_eq_one,
        Nat.reducePow, Nat.reduceMul, Nat.reduceMod, Nat.reduceAdd, Nat.reduceSub,
        Nat.reduceDiv, Nat.reduceEqDiff, Nat.reduceLTLE, Nat.reduceLeDiff, Nat.reduceLT,
        Nat.reduceGT, Nat.reduceOr, Nat.reduceXor, reduceCtorEq, Bool.not_eq_true',
        Bool.not_eq_true, decide_eq_true_eq, decide_eq_false_iff_not, Bool.and_eq_true,
        Bool.or_eq_true, bne_iff_ne, beq_iff_eq, ne_eq, Bool.not_eq_false',
        Bool.not_eq_false, decide_not, not_not, Bool.decide_eq_true, Bool.false_eq_true,
        Bool.true_eq_false, not_false_eq_true, not_true_eq_false, and_true, true_and,
        and_false, false_and, or_true, true_or, or_false, false_or, not_true,
        not_false_iff, iff_self, true_iff, iff_true, false_iff, iff_false, ite_self,
        decide_eq_decide, decide_False, decide_True, Bool.not_true, Bool.not_false]
  rw [fast_pow.pow_L_2TAG_PACKET_7_0_2_eq]
  by_cases h1 : cc_equal (fast_pow.L_2TAG_PACKET_7_0_2_1 cpu s) = true
  · rw [if_pos h1]
    exact Or.inr (avoid_step _ s _ _ (avoid_of_descends _ _ _ _
      (fast_pow.pow_L_2TAG_PACKET_9_0_2_descends _ pow_rank_main cpu _) (by decide)) t1 (by decide))
  rw [if_neg h1]
  have hnz : x % 9223372036854775808 ≠ 0 := by
    rw [← hx]
    exact (pow_L7_c1 cpu s).not.1 h1
  split_ifs
  · exact Or.inr (avoid_step _ s _ _ (avoid_of_descends _ _ _ _
      (fast_pow.pow_L_2TAG_PACKET_37_0_2_descends _ pow_rank_main cpu _) (by decide)) t2 (by decide))
  · exact Or.inr (avoid_step _ s _ _ (avoid_of_descends _ _ _ _
      (fast_pow.pow_L_2TAG_PACKET_28_0_2_descends _ pow_rank_main cpu _) (by decide)) t3 (by decide))
  · exact either_step cpu _ s _ _ _ _
      (pow_L35_either cpu _ x y x4 hx64 hfin hnz y4) t4 (by decide) (by decide)
  · exact either_step cpu _ s _ _ _ _
      (pow_L32_either cpu _ x y x5 hx64 hfin hnz y5) t5 (by decide) (by decide)
  · exact Or.inr (avoid_step _ s _ _ (avoid_of_descends _ _ _ _
      (fast_pow.pow_L_2TAG_PACKET_34_0_2_descends _ pow_rank_main cpu _) (by decide)) t6 (by decide))
  · exact Or.inr (avoid_step _ s _ _ (avoid_of_descends _ _ _ _
      (fast_pow.pow_L_2TAG_PACKET_34_0_2_descends _ pow_rank_main cpu _) (by decide)) t7 (by decide))
  · exact either_step cpu _ s _ _ _ _
      (pow_L35_either cpu _ x y x8 hx64 hfin hnz y8) t8 (by decide) (by decide)
  · exact either_step cpu _ s _ _ _ _
      (pow_L36_either cpu _ x y x9 hx64 hfin hnz y9) t9 (by decide) (by decide)

/-- From `L_2TAG_PACKET_0_0_2`, entered with the top 16 bits of `x` minus 16 in `eax` for a
base that is not a positive normal number: the run either enters `L_2TAG_PACKET_4_0_2` with
the exponent of the base in `eax` or never enters it; it does enter it for a positive
subnormal base. -/
theorem pow_L0_main (cpu : Cpu) (s : Machine) (x y : Nat) (hx : s.get (.m 8) = x)
    (hx64 : x < 18446744073709551616)
    (ha : s.get (.g eax) % 4294967296 = (x / 281474976710656 + 4294967280) % 4294967296)
    (hb : x / 281474976710656 < 16 ∨ 32752 ≤ x / 281474976710656)
    (hy : s.get (.m 16) = y) :
    (fast_pow.ReachesMain cpu (fast_pow.L_2TAG_PACKET_0_0_2 cpu s) s (f64Ilogb x) y ∨
      fast_pow.AvoidsMain (fast_pow.L_2TAG_PACKET_0_0_2 cpu s) s) ∧
    (0 < x → x < 0x7FF0000000000000 →
      fast_pow.ReachesMain cpu (fast_pow.L_2TAG_PACKET_0_0_2 cpu s) s (f64Ilogb x) y) := by
  have hc1 : cc_equal (fast_pow.L_2TAG_PACKET_0_0_2_1 cpu s) = true ↔ x / 4503599627370496 % 2048 = 2047 := by
    set_option maxRecDepth 8000 in
    simp only [
        ↓reduceIte, ↓fast_pow.pow_L_2TAG_PACKET_0_0_2_1_sem, ha, ↓Machine.get_setx,
        ↓Machine.get_setg, ↓Machine.get_setstk, ↓Machine.get_enter, ↓Machine.get_setFlags,
        ↓Machine.trace_set, ↓Machine.get_ite, ↓Machine.trace_ite, ↓Machine.obs_eq_get,
        ↓Machine.flags_get, ↓Machine.flags_trace, ↓sem_get_1, ↓sem_get_2, ↓sem_get_3,
        ↓sem_get_4, ↓sem_trace_1, ↓sem_trace_2, ↓sem_trace_3, ↓sem_trace_4, ↓load_const,
        cc_iff, ea, and_imm, and_imm_left, ilog2_lit, or_eq_zero, or_mod32, or_lt_2p31,
        Nat.mod_mod, Nat.zero_or, Nat.or_zero, Nat.sub_zero, Nat.add_mod_right, lane_eq,
        Machine.io_eq_get, Nat.xor_self, Loc.x.injEq, Loc.g.injEq, Loc.m.injEq,
        Bool.toNat_eq_zero, Bool.toNat_eq_one, Nat.reducePow, Nat.reduceMul,
        Nat.reduceMod, Nat.reduceAdd, Nat.reduceSub, Nat.reduceDiv, Nat.reduceEqDiff,
        Nat.reduceLTLE, Nat.reduceLeDiff, Nat.reduceLT, Nat.reduceGT, Nat.reduceOr,
        Nat.reduceXor, reduceCtorEq, Bool.not_eq_true', Bool.not_eq_true,
        decide_eq_true_eq, decide_eq_false_iff_not, Bool.and_eq_true, Bool.or_eq_true,
        bne_iff_ne, beq_iff_eq, ne_eq, Bool.not_eq_false', Bool.not_eq_false, decide_not,
        not_not, Bool.decide_eq_true, Bool.false_eq_true, Bool.true_eq_false,
        not_false_eq_true, not_true_eq_false, and_true, true_and, and_false, false_and,
        or_true, true_or, or_false, false_or, not_true, not_false_iff, iff_self, true_iff,
        iff_true, false_iff, iff_false, ite_self, decide_eq_decide, decide_False,
        decide_True, Bool.not_true, Bool.not_false]
    all_goals omega
  have hc2 : cc_notEqual (fast_pow.L_2TAG_PACKET_0_0_2_2 cpu (fast_pow.L_2TAG_PACKET_0_0_2_1 cpu s)) = true ↔ 9223372036854775808 ≤ x := by
    set_option maxRecDepth 8000 in
    simp only [
        ↓reduceIte, ↓fast_pow.pow_L_2TAG_PACKET_0_0_2_2_sem,
        ↓fast_pow.pow_L_2TAG_PACKET_0_0_2_1_sem, ha, ↓Machine.get_setx, ↓Machine.get_setg,
        ↓Machine.get_setstk, ↓Machine.get_enter, ↓Machine.get_setFlags,
        ↓Machine.trace_set, ↓Machine.get_ite, ↓Machine.trace_ite, ↓Machine.obs_eq_get,
        ↓Machine.flags_get, ↓Machine.flags_trace, ↓sem_get_1, ↓sem_get_2, ↓sem_get_3,
        ↓sem_get_4, ↓sem_trace_1, ↓sem_trace_2, ↓sem_trace_3, ↓sem_trace_4, ↓load_const,
        cc_iff, ea, and_imm, and_imm_left, ilog2_lit, or_eq_zero, or_mod32, or_lt_2p31,
        Nat.mod_mod, Nat.zero_or, Nat.or_zero, Nat.sub_zero, Nat.add_mod_right, lane_eq,
        Machine.io_eq_get, Nat.xor_self, Loc.x.injEq, Loc.g.injEq, Loc.m.injEq,
        Bool.toNat_eq_zero, Bool.toNat_eq_one, Nat.reducePow, Nat.reduceMul,
        Nat.reduceMod, Nat.reduceAdd, Nat.reduceSub, Nat.reduceDiv, Nat.reduceEqDiff,
        Nat.reduceLTLE, Nat.reduceLeDiff, Nat.reduceLT, Nat.reduceGT, Nat.reduceOr,
        Nat.reduceXor, reduceCtorEq, Bool.not_eq_true', Bool.not_eq_true,
        decide_eq_true_eq, decide_eq_false_iff_not, Bool.and_eq_true, Bool.or_eq_true,
        bne_iff_ne, beq_iff_eq, ne_eq, Bool.not_eq_false', Bool.not_eq_false, decide_not,
        not_not, Bool.decide_eq_true, Bool.false_eq_true, Bool.true_eq_false,
        not_false_eq_true, not_true_eq_false, and_true, true_and, and_false, false_and,
        or_true, true_or, or_false, false_or, not_true, not_false_iff, iff_self, true_iff,
        iff_true, false_iff, iff_false, ite_self, decide_eq_decide, decide_False,
        decide_True, Bool.not_true, Bool.not_false]
    all_goals omega
  have t1 : (fast_pow.L_2TAG_PACKET_0_0_2_1 cpu s).trace = Label.L_2TAG_PACKET_0_0_2 :: s.trace := by
    rw [fast_pow.pow_L_2TAG_PACKET_0_0_2_1_trace]
  have t2 : (fast_pow.L_2TAG_PACKET_0_0_2_2 cpu (fast_pow.L_2TAG_PACKET_0_0_2_1 cpu s)).trace = Label.L_2TAG_PACKET_0_0_2 :: s.trace := by
    rw [fast_pow.pow_L_2TAG_PACKET_0_0_2_2_trace, fast_pow.pow_L_2TAG_PACKET_0_0_2_1_trace]
  have t3 : (fast_pow.L_2TAG_PACKET_0_0_2_3 cpu (fast_pow.L_2TAG_PACKET_0_0_2_2 cpu (fast_pow.L_2TAG_PACKET_0_0_2_1 cpu s))).trace = Label.L_2TAG_PACKET_0_0_2 :: s.trace := by
    rw [fast_pow.pow_L_2TAG_PACKET_0_0_2_3_trace, fast_pow.pow_L_2TAG_PACKET_0_0_2_2_trace,
      fast_pow.pow_L_2TAG_PACKET_0_0_2_1_trace]
  have x2 : (fast_pow.L_2TAG_PACKET_0_0_2_2 cpu (fast_pow.L_2TAG_PACKET_0_0_2_1 cpu s)).get (.m 8) = x := by
    set_option maxRecDepth 8000 in
    simp only [
        ↓reduceIte, ↓fast_pow.pow_L_2TAG_PACKET_0_0_2_2_sem,
        ↓fast_pow.pow_L_2TAG_PACKET_0_0_2_1_sem, hx, ↓Machine.get_setx, ↓Machine.get_setg,
        ↓Machine.get_setstk, ↓Machine.get_enter, ↓Machine.get_setFlags,
        ↓Machine.trace_set, ↓Machine.get_ite, ↓Machine.trace_ite, ↓Machine.obs_eq_get,
        ↓Machine.flags_get, ↓Machine.flags_trace, ↓sem_get_1, ↓sem_get_2, ↓sem_get_3,
        ↓sem_get_4, ↓sem_trace_1, ↓sem_trace_2, ↓sem_trace_3, ↓sem_trace_4, ↓load_const,
        cc_iff, ea, and_imm, and_imm_left, ilog2_lit, or_eq_zero, or_mod32, or_lt_2p31,
        Nat.mod_mod, Nat.zero_or, Nat.or_zero, Nat.sub_zero, Nat.add_mod_right, lane_eq,
        Machine.io_eq_get, Nat.xor_self, Loc.x.injEq, Loc.g.injEq, Loc.m.injEq,
        Bool.toNat_eq_zero, Bool.toNat_eq_one, Nat.reducePow, Nat.reduceMul,
        Nat.reduceMod, Nat.reduceAdd, Nat.reduceSub, Nat.reduceDiv, Nat.reduceEqDiff,
        Nat.reduceLTLE, Nat.reduceLeDiff, Nat.reduceLT, Nat.reduceGT, Nat.reduceOr,
        Nat.reduceXor, reduceCtorEq, Bool.not_eq_true', Bool.not_eq_true,
        decide_eq_true_eq, decide_eq_false_iff_not, Bool.and_eq_true, Bool.or_eq_true,
        bne_iff_ne, beq_iff_eq, ne_eq, Bool.not_eq_false', Bool.not_eq_false, decide_not,
        not_not, Bool.decide_eq_true, Bool.false_eq_true, Bool.true_eq_false,
        not_false_eq_true, not_true_eq_false, and_true, true_and, and_false, false_and,
        or_true, true_or, or_false, false_or, not_true, not_false_iff, iff_self, true_iff,
        iff_true, false_iff, iff_false, ite_self, decide_eq_decide, decide_False,
        decide_True, Bool.not_true, Bool.not_false]
  have y2 : (fast_pow.L_2TAG_PACKET_0_0_2_2 cpu (fast_pow.L_2TAG_PACKET_0_0_2_1 cpu s)).get (.m 16) = y := by
    set_option maxRecDepth 8000 in
    simp only [
        ↓reduceIte, ↓fast_pow.pow_L_2TAG_PACKET_0_0_2_2_sem,
        ↓fast_pow.pow_L_2TAG_PACKET_0_0_2_1_sem, hy, ↓Machine.get_setx, ↓Machine.get_setg,
        ↓Machine.get_setstk, ↓Machine.get_enter, ↓Machine.get_setFlags,
        ↓Machine.trace_set, ↓Machine.get_ite, ↓Machine.trace_ite, ↓Machine.obs_eq_get,
        ↓Machine.flags_get, ↓Machine.flags_trace, ↓sem_get_1, ↓sem_get_2, ↓sem_get_3,
        ↓sem_get_4, ↓sem_trace_1, ↓sem_trace_2, ↓sem_trace_3, ↓sem_trace_4, ↓load_const,
        cc_iff, ea, and_imm, and_imm_left, ilog2_lit, or_eq_zero, or_mod32, or_lt_2p31,
        Nat.mod_mod, Nat.zero_or, Nat.or_zero, Nat.sub_zero, Nat.add_mod_right, lane_eq,
        Machine.io_eq_get, Nat.xor_self, Loc.x.injEq, Loc.g.injEq, Loc.m.injEq,
        Bool.toNat_eq_zero, Bool.toNat_eq_one, Nat.reducePow, Nat.reduceMul,
        Nat.reduceMod, Nat.reduceAdd, Nat.reduceSub, Nat.reduceDiv, Nat.reduceEqDiff,
        Nat.reduceLTLE, Nat.reduceLeDiff, Nat.reduceLT, Nat.reduceGT, Nat.reduceOr,
        Nat.reduceXor, reduceCtorEq, Bool.not_eq_true', Bool.not_eq_true,
        decide_eq_true_eq, decide_eq_false_iff_not, Bool.and_eq_true, Bool.or_eq_true,
        bne_iff_ne, beq_iff_eq, ne_eq, Bool.not_eq_false', Bool.not_eq_false, decide_not,
        not_not, Bool.decide_eq_true, Bool.false_eq_true, Bool.true_eq_false,
        not_false_eq_true, not_true_eq_false, and_true, true_and, and_false, false_and,
        or_true, true_or, or_false, false_or, not_true, not_false_iff, iff_self, true_iff,
        iff_true, false_iff, iff_false, ite_self, decide_eq_decide, decide_False,
        decide_True, Bool.not_true, Bool.not_false]
  have x3 : (fast_pow.L_2TAG_PACKET_0_0_2_3 cpu (fast_pow.L_2TAG_PACKET_0_0_2_2 cpu (fast_pow.L_2TAG_PACKET_0_0_2_1 cpu s))).get (.m 8) = x := by
    set_option maxRecDepth 8000 in
    simp only [
        ↓reduceIte, ↓fast_pow.pow_L_2TAG_PACKET_0_0_2_3_sem,
        ↓fast_pow.pow_L_2TAG_PACKET_0_0_2_2_sem, ↓fast_pow.pow_L_2TAG_PACKET_0_0_2_1_sem,
        hx, ↓Machine.get_setx, ↓Machine.get_setg, ↓Machine.get_setstk, ↓Machine.get_enter,
        ↓Machine.get_setFlags, ↓Machine.trace_set, ↓Machine.get_ite, ↓Machine.trace_ite,
        ↓Machine.obs_eq_get, ↓Machine.flags_get, ↓Machine.flags_trace, ↓sem_get_1,
        ↓sem_get_2, ↓sem_get_3, ↓sem_get_4, ↓sem_trace_1, ↓sem_trace_2, ↓sem_trace_3,
        ↓sem_trace_4, ↓load_const, cc_iff, ea, and_imm, and_imm_left, ilog2_lit,
        or_eq_zero, or_mod32, or_lt_2p31, Nat.mod_mod, Nat.zero_or, Nat.or_zero,
        Nat.sub_zero, Nat.add_mod_right, lane_eq, Machine.io_eq_get, Nat.xor_self,
        Loc.x.injEq, Loc.g.injEq, Loc.m.injEq, Bool.toNat_eq_zero, Bool.toNat_eq_one,
        Nat.reducePow, Nat.reduceMul, Nat.reduceMod, Nat.reduceAdd, Nat.reduceSub,
        Nat.reduceDiv, Nat.reduceEqDiff, Nat.reduceLTLE, Nat.reduceLeDiff, Nat.reduceLT,
        Nat.reduceGT, Nat.reduceOr, Nat.reduceXor, reduceCtorEq, Bool.not_eq_true',
        Bool.not_eq_true, decide_eq_true_eq, decide_eq_false_iff_not, Bool.and_eq_true,
        Bool.or_eq_true, bne_iff_ne, beq_iff_eq, ne_eq, Bool.not_eq_false',
        Bool.not_eq_false, decide_not, not_not, Bool.decide_eq_true, Bool.false_eq_true,
        Bool.true_eq_false, not_false_eq_true, not_true_eq_false, and_true, true_and,
        and_false, false_and, or_true, true_or, or_false, false_or, not_true,
        not_false_iff, iff_self, true_iff, iff_true, false_iff, iff_false, ite_self,
        decide_eq_decide, decide_False, decide_True, Bool.not_true, Bool.not_false]
  have y3 : (fast_pow.L_2TAG_PACKET_0_0_2_3 cpu (fast_pow.L_2TAG_PACKET_0_0_2_2 cpu (fast_pow.L_2TAG_PACKET_0_0_2_1 cpu s))).get (.m 16) = y := by
    set_option maxRecDepth 8000 in
    simp only [
        ↓reduceIte, ↓fast_pow.pow_L_2TAG_PACKET_0_0_2_3_sem,
        ↓fast_pow.pow_L_2TAG_PACKET_0_0_2_2_sem, ↓fast_pow.pow_L_2TAG_PACKET_0_0_2_1_sem,
        hy, ↓Machine.get_setx, ↓Machine.get_setg, ↓Machine.get_setstk, ↓Machine.get_enter,
        ↓Machine.get_setFlags, ↓Machine.trace_set, ↓Machine.get_ite, ↓Machine.trace_ite,
        ↓Machine.obs_eq_get, ↓Machine.flags_get, ↓Machine.flags_trace, ↓sem_get_1,
        ↓sem_get_2, ↓sem_get_3, ↓sem_get_4, ↓sem_trace_1, ↓sem_trace_2, ↓sem_trace_3,
        ↓sem_trace_4, ↓load_const, cc_iff, ea, and_imm, and_imm_left, ilog2_lit,
        or_eq_zero, or_mod32, or_lt_2p31, Nat.mod_mod, Nat.zero_or, Nat.or_zero,
        Nat.sub_zero, Nat.add_mod_right, lane_eq, Machine.io_eq_get, Nat.xor_self,
        Loc.x.injEq, Loc.g.injEq, Loc.m.injEq, Bool.toNat_eq_zero, Bool.toNat_eq_one,
        Nat.reducePow, Nat.reduceMul, Nat.reduceMod, Nat.reduceAdd, Nat.reduceSub,
        Nat.reduceDiv, Nat.reduceEqDiff, Nat.reduceLTLE, Nat.reduceLeDiff, Nat.reduceLT,
        Nat.reduceGT, Nat.reduceOr, Nat.reduceXor, reduceCtorEq, Bool.not_eq_true',
        Bool.not_eq_true, decide_eq_true_eq, decide_eq_false_iff_not, Bool.and_eq_true,
        Bool.or_eq_true, bne_iff_ne, beq_iff_eq, ne_eq, Bool.not_eq_false',
        Bool.not_eq_false, decide_not, not_not, Bool.decide_eq_true, Bool.false_eq_true,
        Bool.true_eq_false, not_false_eq_true, not_true_eq_false, and_true, true_and,
        and_false, false_and, or_true, true_or, or_false, false_or, not_true,
        not_false_iff, iff_self, true_iff, iff_true, false_iff, iff_false, ite_self,
        decide_eq_decide, decide_False, decide_True, Bool.not_true, Bool.not_false]
  rw [fast_pow.pow_L_2TAG_PACKET_0_0_2_eq]
  by_cases h1 : cc_equal (fast_pow.L_2TAG_PACKET_0_0_2_1 cpu s) = true
  · rw [if_pos h1]
    have e1 := hc1.1 h1
    refine ⟨Or.inr (avoid_step _ s _ _ (avoid_of_descends _ _ _ _
      (fast_pow.pow_L_2TAG_PACKET_6_0_2_descends _ pow_rank_main cpu _) (by decide)) t1
      (by decide)), fun _ h => ?_⟩
    omega
  rw [if_neg h1]
  have hfin : x / 4503599627370496 % 2048 < 2047 := by
    have := mt hc1.2 h1
    omega
  by_cases h2 : cc_notEqual (fast_pow.L_2TAG_PACKET_0_0_2_2 cpu (fast_pow.L_2TAG_PACKET_0_0_2_1 cpu s)) = true
  · rw [if_pos h2]
    have e2 := hc2.1 h2
    refine ⟨either_step cpu _ s _ _ _ _ (pow_L7_either cpu _ x y x2 hx64 hfin y2) t2 (by decide)
      (by decide), fun _ h => ?_⟩
    omega
  rw [if_neg h2]
  have hpos : x < 9223372036854775808 := by
    have := mt hc2.2 h2
    omega
  obtain ⟨r1, r2⟩ := pow_L8_main cpu (fast_pow.L_2TAG_PACKET_0_0_2_3 cpu (fast_pow.L_2TAG_PACKET_0_0_2_2 cpu (fast_pow.L_2TAG_PACKET_0_0_2_1 cpu s))) x y x3 hx64 (by omega) y3
  constructor
  · by_cases h0 : x = 0
    · exact Or.inr (avoid_step _ s _ _ (r2 h0) t3 (by decide))
    · exact Or.inl (reach_step cpu _ s _ _ _ _ (r1 (by omega)) t3 (by decide) (by decide))
  · intro h0 _
    exact reach_step cpu _ s _ _ _ _ (r1 (by omega)) t3 (by decide) (by decide)

/-- From `B1_2`, entered with the base in `xmm0` and both arguments in their stack slots: the
run either enters `L_2TAG_PACKET_4_0_2` with the exponent of the base in `eax` or never enters
it; for a positive finite base it enters it unless the base is near one (top 16 bits 16367 or
16368) and the exponent field of `y` is at least 1035. -/
theorem pow_B1_2_main (cpu : Cpu) (s : Machine) (x y : Nat)
    (hx0 : s.get (.x xmm0) % 18446744073709551616 = x) (hx : s.get (.m 8) = x)
    (hy : s.get (.m 16) = y) :
    (fast_pow.ReachesMain cpu (fast_pow.B1_2 cpu s) s (f64Ilogb x) y ∨
      fast_pow.AvoidsMain (fast_pow.B1_2 cpu s) s) ∧
    (0 < x → x < 0x7FF0000000000000 →
      ((((x / 281474976710656 ≠ 16367 ∧ x / 281474976710656 ≠ 16368) ∨
          y / 2 ^ 52 % 2048 < 1035) →
        fast_pow.ReachesMain cpu (fast_pow.B1_2 cpu s) s (f64Ilogb x) y) ∧
      (¬ ((x / 281474976710656 ≠ 16367 ∧ x / 281474976710656 ≠ 16368) ∨
          y / 2 ^ 52 % 2048 < 1035) →
        fast_pow.AvoidsMain (fast_pow.B1_2 cpu s) s))) := by
  have hx64 : x < 18446744073709551616 := by
    rw [← hx0]
    exact Nat.mod_lt _ (by decide)
  have hc : cc_aboveEqual (fast_pow.B1_2_1 cpu s) = true ↔
      (x / 281474976710656 < 16 ∨ 32752 ≤ x / 281474976710656) := by
    rw [← hx0]
    set_option maxRecDepth 8000 in
    simp only [
        ↓reduceIte, ↓fast_pow.pow_B1_2_1_sem, ↓Machine.get_setx, ↓Machine.get_setg,
        ↓Machine.get_setstk, ↓Machine.get_enter, ↓Machine.get_setFlags,
        ↓Machine.trace_set, ↓Machine.get_ite, ↓Machine.trace_ite, ↓Machine.obs_eq_get,
        ↓Machine.flags_get, ↓Machine.flags_trace, ↓sem_get_1, ↓sem_get_2, ↓sem_get_3,
        ↓sem_get_4, ↓sem_trace_1, ↓sem_trace_2, ↓sem_trace_3, ↓sem_trace_4, ↓load_const,
        cc_iff, ea, and_imm, and_imm_left, ilog2_lit, or_eq_zero, or_mod32, or_lt_2p31,
        Nat.mod_mod, Nat.zero_or, Nat.or_zero, Nat.sub_zero, Nat.add_mod_right, lane_eq,
        Machine.io_eq_get, Nat.xor_self, Loc.x.injEq, Loc.g.injEq, Loc.m.injEq,
        Bool.toNat_eq_zero, Bool.toNat_eq_one, Nat.reducePow, Nat.reduceMul,
        Nat.reduceMod, Nat.reduceAdd, Nat.reduceSub, Nat.reduceDiv, Nat.reduceEqDiff,
        Nat.reduceLTLE, Nat.reduceLeDiff, Nat.reduceLT, Nat.reduceGT, Nat.reduceOr,
        Nat.reduceXor, reduceCtorEq, Bool.not_eq_true', Bool.not_eq_true,
        decide_eq_true_eq, decide_eq_false_iff_not, Bool.and_eq_true, Bool.or_eq_true,
        bne_iff_ne, beq_iff_eq, ne_eq, Bool.not_eq_false', Bool.not_eq_false, decide_not,
        not_not, Bool.decide_eq_true, Bool.false_eq_true, Bool.true_eq_false,
        not_false_eq_true, not_true_eq_false, and_true, true_and, and_false, false_and,
        or_true, true_or, or_false, false_or, not_true, not_false_iff, iff_self, true_iff,
        iff_true, false_iff, iff_false, ite_self, decide_eq_decide, decide_False,
        decide_True, Bool.not_true, Bool.not_false]
    all_goals omega
  have t1 : (fast_pow.B1_2_1 cpu s).trace = Label.B1_2 :: s.trace := by
    rw [fast_pow.pow_B1_2_1_trace]
  have t2 : (fast_pow.B1_2_2 cpu (fast_pow.B1_2_1 cpu s)).trace = Label.B1_2 :: s.trace := by
    rw [fast_pow.pow_B1_2_2_trace, fast_pow.pow_B1_2_1_trace]
  have x1 : (fast_pow.B1_2_1 cpu s).get (.m 8) = x := by
    set_option maxRecDepth 8000 in
    simp only [
        ↓reduceIte, ↓fast_pow.pow_B1_2_1_sem, hx, ↓Machine.get_setx, ↓Machine.get_setg,
        ↓Machine.get_setstk, ↓Machine.get_enter, ↓Machine.get_setFlags,
        ↓Machine.trace_set, ↓Machine.get_ite, ↓Machine.trace_ite, ↓Machine.obs_eq_get,
        ↓Machine.flags_get, ↓Machine.flags_trace, ↓sem_get_1, ↓sem_get_2, ↓sem_get_3,
        ↓sem_get_4, ↓sem_trace_1, ↓sem_trace_2, ↓sem_trace_3, ↓sem_trace_4, ↓load_const,
        cc_iff, ea, and_imm, and_imm_left, ilog2_lit, or_eq_zero, or_mod32, or_lt_2p31,
        Nat.mod_mod, Nat.zero_or, Nat.or_zero, Nat.sub_zero, Nat.add_mod_right, lane_eq,
        Machine.io_eq_get, Nat.xor_self, Loc.x.injEq, Loc.g.injEq, Loc.m.injEq,
        Bool.toNat_eq_zero, Bool.toNat_eq_one, Nat.reducePow, Nat.reduceMul,
        Nat.reduceMod, Nat.reduceAdd, Nat.reduceSub, Nat.reduceDiv, Nat.reduceEqDiff,
        Nat.reduceLTLE, Nat.reduceLeDiff, Nat.reduceLT, Nat.reduceGT, Nat.reduceOr,
        Nat.reduceXor, reduceCtorEq, Bool.not_eq_true', Bool.not_eq_true,
        decide_eq_true_eq, decide_eq_false_iff_not, Bool.and_eq_true, Bool.or_eq_true,
        bne_iff_ne, beq_iff_eq, ne_eq, Bool.not_eq_false', Bool.not_eq_false, decide_not,
        not_not, Bool.decide_eq_true, Bool.false_eq_true, Bool.true_eq_false,
        not_false_eq_true, not_true_eq_false, and_true, true_and, and_false, false_and,
        or_true, true_or, or_false, false_or, not_true, not_false_iff, iff_self, true_iff,
        iff_true, false_iff, iff_false, ite_self, decide_eq_decide, decide_False,
        decide_True, Bool.not_true, Bool.not_false]
  have y1 : (fast_pow.B1_2_1 cpu s).get (.m 16) = y := by
    set_option maxRecDepth 8000 in
    simp only [
        ↓reduceIte, ↓fast_pow.pow_B1_2_1_sem, hy, ↓Machine.get_setx, ↓Machine.get_setg,
        ↓Machine.get_setstk, ↓Machine.get_enter, ↓Machine.get_setFlags,
        ↓Machine.trace_set, ↓Machine.get_ite, ↓Machine.trace_ite, ↓Machine.obs_eq_get,
        ↓Machine.flags_get, ↓Machine.flags_trace, ↓sem_get_1, ↓sem_get_2, ↓sem_get_3,
        ↓sem_get_4, ↓sem_trace_1, ↓sem_trace_2, ↓sem_trace_3, ↓sem_trace_4, ↓load_const,
        cc_iff, ea, and_imm, and_imm_left, ilog2_lit, or_eq_zero, or_mod32, or_lt_2p31,
        Nat.mod_mod, Nat.zero_or, Nat.or_zero, Nat.sub_zero, Nat.add_mod_right, lane_eq,
        Machine.io_eq_get, Nat.xor_self, Loc.x.injEq, Loc.g.injEq, Loc.m.injEq,
        Bool.toNat_eq_zero, Bool.toNat_eq_one, Nat.reducePow, Nat.reduceMul,
        Nat.reduceMod, Nat.reduceAdd, Nat.reduceSub, Nat.reduceDiv, Nat.reduceEqDiff,
        Nat.reduceLTLE, Nat.reduceLeDiff, Nat.reduceLT, Nat.reduceGT, Nat.reduceOr,
        Nat.reduceXor, reduceCtorEq, Bool.not_eq_true', Bool.not_eq_true,
        decide_eq_true_eq, decide_eq_false_iff_not, Bool.and_eq_true, Bool.or_eq_true,
        bne_iff_ne, beq_iff_eq, ne_eq, Bool.not_eq_false', Bool.not_eq_false, decide_not,
        not_not, Bool.decide_eq_true, Bool.false_eq_true, Bool.true_eq_false,
        not_false_eq_true, not_true_eq_false, and_true, true_and, and_false, false_and,
        or_true, true_or, or_false, false_or, not_true, not_false_iff, iff_self, true_iff,
        iff_true, false_iff, iff_false, ite_self, decide_eq_decide, decide_False,
        decide_True, Bool.not_true, Bool.not_false]
  have y2 : (fast_pow.B1_2_2 cpu (fast_pow.B1_2_1 cpu s)).get (.m 16) = y := by
    set_option maxRecDepth 8000 in
    simp only [
        ↓reduceIte, ↓fast_pow.pow_B1_2_2_sem, ↓fast_pow.pow_B1_2_1_sem, hy,
        ↓Machine.get_setx, ↓Machine.get_setg, ↓Machine.get_setstk, ↓Machine.get_enter,
        ↓Machine.get_setFlags, ↓Machine.trace_set, ↓Machine.get_ite, ↓Machine.trace_ite,
        ↓Machine.obs_eq_get, ↓Machine.flags_get, ↓Machine.flags_trace, ↓sem_get_1,
        ↓sem_get_2, ↓sem_get_3, ↓sem_get_4, ↓sem_trace_1, ↓sem_trace_2, ↓sem_trace_3,
        ↓sem_trace_4, ↓load_const, cc_iff, ea, and_imm, and_imm_left, ilog2_lit,
        or_eq_zero, or_mod32, or_lt_2p31, Nat.mod_mod, Nat.zero_or, Nat.or_zero,
        Nat.sub_zero, Nat.add_mod_right, lane_eq, Machine.io_eq_get, Nat.xor_self,
        Loc.x.injEq, Loc.g.injEq, Loc.m.injEq, Bool.toNat_eq_zero, Bool.toNat_eq_one,
        Nat.reducePow, Nat.reduceMul, Nat.reduceMod, Nat.reduceAdd, Nat.reduceSub,
        Nat.reduceDiv, Nat.reduceEqDiff, Nat.reduceLTLE, Nat.reduceLeDiff, Nat.reduceLT,
        Nat.reduceGT, Nat.reduceOr, Nat.reduceXor, reduceCtorEq, Bool.not_eq_true',
        Bool.not_eq_true, decide_eq_true_eq, decide_eq_false_iff_not, Bool.and_eq_true,
        Bool.or_eq_true, bne_iff_ne, beq_iff_eq, ne_eq, Bool.not_eq_false',
        Bool.not_eq_false, decide_not, not_not, Bool.decide_eq_true, Bool.false_eq_true,
        Bool.true_eq_false, not_false_eq_true, not_true_eq_false, and_true, true_and,
        and_false, false_and, or_true, true_or, or_false, false_or, not_true,
        not_false_iff, iff_self, true_iff, iff_true, false_iff, iff_false, ite_self,
        decide_eq_decide, decide_False, decide_True, Bool.not_true, Bool.not_false]
  have a1 : (fast_pow.B1_2_1 cpu s).get (.g eax) % 4294967296 =
      (x / 281474976710656 + 4294967280) % 4294967296 := by
    rw [← hx0]
    set_option maxRecDepth 8000 in
    simp only [
        ↓reduceIte, ↓fast_pow.pow_B1_2_1_sem, ↓Machine.get_setx, ↓Machine.get_setg,
        ↓Machine.get_setstk, ↓Machine.get_enter, ↓Machine.get_setFlags,
        ↓Machine.trace_set, ↓Machine.get_ite, ↓Machine.trace_ite, ↓Machine.obs_eq_get,
        ↓Machine.flags_get, ↓Machine.flags_trace, ↓sem_get_1, ↓sem_get_2, ↓sem_get_3,
        ↓sem_get_4, ↓sem_trace_1, ↓sem_trace_2, ↓sem_trace_3, ↓sem_trace_4, ↓load_const,
        cc_iff, ea, and_imm, and_imm_left, ilog2_lit, or_eq_zero, or_mod32, or_lt_2p31,
        Nat.mod_mod, Nat.zero_or, Nat.or_zero, Nat.sub_zero, Nat.add_mod_right, lane_eq,
        Machine.io_eq_get, Nat.xor_self, Loc.x.injEq, Loc.g.injEq, Loc.m.injEq,
        Bool.toNat_eq_zero, Bool.toNat_eq_one, Nat.reducePow, Nat.reduceMul,
        Nat.reduceMod, Nat.reduceAdd, Nat.reduceSub, Nat.reduceDiv, Nat.reduceEqDiff,
        Nat.reduceLTLE, Nat.reduceLeDiff, Nat.reduceLT, Nat.reduceGT, Nat.reduceOr,
        Nat.reduceXor, reduceCtorEq, Bool.not_eq_true', Bool.not_eq_true,
        decide_eq_true_eq, decide_eq_false_iff_not, Bool.and_eq_true, Bool.or_eq_true,
        bne_iff_ne, beq_iff_eq, ne_eq, Bool.not_eq_false', Bool.not_eq_false, decide_not,
        not_not, Bool.decide_eq_true, Bool.false_eq_true, Bool.true_eq_false,
        not_false_eq_true, not_true_eq_false, and_true, true_and, and_false, false_and,
        or_true, true_or, or_false, false_or, not_true, not_false_iff, iff_self, true_iff,
        iff_true, false_iff, iff_false, ite_self, decide_eq_decide, decide_False,
        decide_True, Bool.not_true, Bool.not_false]
    all_goals omega
  have a2 : (fast_pow.B1_2_2 cpu (fast_pow.B1_2_1 cpu s)).get (.g eax) % 4294967296 =
      (x / 281474976710656 + 4294967280) % 4294967296 := by
    rw [← hx0]
    set_option maxRecDepth 8000 in
    simp only [
        ↓reduceIte, ↓fast_pow.pow_B1_2_2_sem, ↓fast_pow.pow_B1_2_1_sem, ↓Machine.get_setx,
        ↓Machine.get_setg, ↓Machine.get_setstk, ↓Machine.get_enter, ↓Machine.get_setFlags,
        ↓Machine.trace_set, ↓Machine.get_ite, ↓Machine.trace_ite, ↓Machine.obs_eq_get,
        ↓Machine.flags_get, ↓Machine.flags_trace, ↓sem_get_1, ↓sem_get_2, ↓sem_get_3,
        ↓sem_get_4, ↓sem_trace_1, ↓sem_trace_2, ↓sem_trace_3, ↓sem_trace_4, ↓load_const,
        cc_iff, ea, and_imm, and_imm_left, ilog2_lit, or_eq_zero, or_mod32, or_lt_2p31,
        Nat.mod_mod, Nat.zero_or, Nat.or_zero, Nat.sub_zero, Nat.add_mod_right, lane_eq,
        Machine.io_eq_get, Nat.xor_self, Loc.x.injEq, Loc.g.injEq, Loc.m.injEq,
        Bool.toNat_eq_zero, Bool.toNat_eq_one, Nat.reducePow, Nat.reduceMul,
        Nat.reduceMod, Nat.reduceAdd, Nat.reduceSub, Nat.reduceDiv, Nat.reduceEqDiff,
        Nat.reduceLTLE, Nat.reduceLeDiff, Nat.reduceLT, Nat.reduceGT, Nat.reduceOr,
        Nat.reduceXor, reduceCtorEq, Bool.not_eq_true', Bool.not_eq_true,
        decide_eq_true_eq, decide_eq_false_iff_not, Bool.and_eq_true, Bool.or_eq_true,
        bne_iff_ne, beq_iff_eq, ne_eq, Bool.not_eq_false', Bool.not_eq_false, decide_not,
        not_not, Bool.decide_eq_true, Bool.false_eq_true, Bool.true_eq_false,
        not_false_eq_true, not_true_eq_false, and_true, true_and, and_false, false_and,
        or_true, true_or, or_false, false_or, not_true, not_false_iff, iff_self, true_iff,
        iff_true, false_iff, iff_false, ite_self, decide_eq_decide, decide_False,
        decide_True, Bool.not_true, Bool.not_false]
    all_goals omega
  rw [fast_pow.pow_B1_2_eq]
  by_cases h1 : cc_aboveEqual (fast_pow.B1_2_1 cpu s) = true
  · rw [if_pos h1]
    have e1 := hc.1 h1
    obtain ⟨r1, r2⟩ := pow_L0_main cpu (fast_pow.B1_2_1 cpu s) x y x1 hx64 a1 e1 y1
    refine ⟨either_step cpu _ s _ _ _ _ r1 t1 (by decide) (by decide), fun h0 h2 => ⟨fun _ => ?_,
      fun h => ?_⟩⟩
    · exact reach_step cpu _ s _ _ _ _ (r2 h0 h2) t1 (by decide) (by decide)
    · exact absurd (Or.inl ⟨by omega, by omega⟩) h
  rw [if_neg h1]
  have e1 : ¬ (x / 281474976710656 < 16 ∨ 32752 ≤ x / 281474976710656) := fun h => h1 (hc.2 h)
  have hE : x / 281474976710656 % 32768 = x / 281474976710656 := by omega
  obtain ⟨r1, r2⟩ := pow_L1_main cpu (fast_pow.B1_2_2 cpu (fast_pow.B1_2_1 cpu s)) (x / 281474976710656) y (by omega)
    (by omega) (by rw [a2]; omega) y2
  rw [← hE, ← f64Ilogb_normal x (by omega), hE] at r1
  refine ⟨?_, fun _ _ => ⟨fun h => ?_, fun h => ?_⟩⟩
  · by_cases h : (x / 281474976710656 ≠ 16367 ∧ x / 281474976710656 ≠ 16368) ∨
        y / 2 ^ 52 % 2048 < 1035
    · exact Or.inl (reach_step cpu _ s _ _ _ _ (r1 h) t2 (by decide) (by decide))
    · exact Or.inr (avoid_step _ s _ _ (r2 h) t2 (by decide))
  · exact reach_step cpu _ s _ _ _ _ (r1 h) t2 (by decide) (by decide)
  · exact avoid_step _ s _ _ (r2 h) t2 (by decide)

/-- Every run of `fast_pow` either enters `L_2TAG_PACKET_4_0_2` with `y` in its stack slot and
the unbiased exponent of `|x|` in `eax`, or never enters it; for a positive finite base it
enters it unless the base is near one (top 16 bits 16367 or 16368) and the exponent field of
`y` is at least 1035. -/
theorem pow_main_cases (cpu : Cpu) (s : Machine) :
    (fast_pow.ReachesMain cpu (fast_pow cpu s) s (f64Ilogb s.arg0) s.arg1 ∨
      fast_pow.AvoidsMain (fast_pow cpu s) s) ∧
    (0 < s.arg0 → s.arg0 < 0x7FF0000000000000 →
      ((((s.arg0 / 281474976710656 ≠ 16367 ∧ s.arg0 / 281474976710656 ≠ 16368) ∨
          s.arg1 / 2 ^ 52 % 2048 < 1035) →
        fast_pow.ReachesMain cpu (fast_pow cpu s) s (f64Ilogb s.arg0) s.arg1) ∧
      (¬ ((s.arg0 / 281474976710656 ≠ 16367 ∧ s.arg0 / 281474976710656 ≠ 16368) ∨
          s.arg1 / 2 ^ 52 % 2048 < 1035) →
        fast_pow.AvoidsMain (fast_pow cpu s) s))) := by
  have t1 : (fast_pow.start_1 cpu (fast_pow.entry_1 cpu s)).trace = Label.start :: Label.entry :: s.trace := by
    rw [fast_pow.pow_start_1_trace, fast_pow.pow_entry_1_trace]
  have x0 : (fast_pow.start_1 cpu (fast_pow.entry_1 cpu s)).get (.x xmm0) % 18446744073709551616 = s.arg0 := by
    simp only [Machine.io_eq_get, Nat.reducePow]
    set_option maxRecDepth 8000 in
    simp only [
        ↓reduceIte, ↓fast_pow.pow_start_1_sem, ↓fast_pow.pow_entry_1_sem,
        ↓Machine.get_setx, ↓Machine.get_setg, ↓Machine.get_setstk, ↓Machine.get_enter,
        ↓Machine.get_setFlags, ↓Machine.trace_set, ↓Machine.get_ite, ↓Machine.trace_ite,
        ↓Machine.obs_eq_get, ↓Machine.flags_get, ↓Machine.flags_trace, ↓sem_get_1,
        ↓sem_get_2, ↓sem_get_3, ↓sem_get_4, ↓sem_trace_1, ↓sem_trace_2, ↓sem_trace_3,
        ↓sem_trace_4, ↓load_const, cc_iff, ea, and_imm, and_imm_left, ilog2_lit,
        or_eq_zero, or_mod32, or_lt_2p31, Nat.mod_mod, Nat.zero_or, Nat.or_zero,
        Nat.sub_zero, Nat.add_mod_right, lane_eq, Machine.io_eq_get, Nat.xor_self,
        Loc.x.injEq, Loc.g.injEq, Loc.m.injEq, Bool.toNat_eq_zero, Bool.toNat_eq_one,
        Nat.reducePow, Nat.reduceMul, Nat.reduceMod, Nat.reduceAdd, Nat.reduceSub,
        Nat.reduceDiv, Nat.reduceEqDiff, Nat.reduceLTLE, Nat.reduceLeDiff, Nat.reduceLT,
        Nat.reduceGT, Nat.reduceOr, Nat.reduceXor, reduceCtorEq, Bool.not_eq_true',
        Bool.not_eq_true, decide_eq_true_eq, decide_eq_false_iff_not, Bool.and_eq_true,
        Bool.or_eq_true, bne_iff_ne, beq_iff_eq, ne_eq, Bool.not_eq_false',
        Bool.not_eq_false, decide_not, not_not, Bool.decide_eq_true, Bool.false_eq_true,
        Bool.true_eq_false, not_false_eq_true, not_true_eq_false, and_true, true_and,
        and_false, false_and, or_true, true_or, or_false, false_or, not_true,
        not_false_iff, iff_self, true_iff, iff_true, false_iff, iff_false, ite_self,
        decide_eq_decide, decide_False, decide_True, Bool.not_true, Bool.not_false]
  have x1 : (fast_pow.start_1 cpu (fast_pow.entry_1 cpu s)).get (.m 8) = s.arg0 := by
    simp only [Machine.io_eq_get, Nat.reducePow]
    set_option maxRecDepth 8000 in
    simp only [
        ↓reduceIte, ↓fast_pow.pow_start_1_sem, ↓fast_pow.pow_entry_1_sem,
        ↓Machine.get_setx, ↓Machine.get_setg, ↓Machine.get_setstk, ↓Machine.get_enter,
        ↓Machine.get_setFlags, ↓Machine.trace_set, ↓Machine.get_ite, ↓Machine.trace_ite,
        ↓Machine.obs_eq_get, ↓Machine.flags_get, ↓Machine.flags_trace, ↓sem_get_1,
        ↓sem_get_2, ↓sem_get_3, ↓sem_get_4, ↓sem_trace_1, ↓sem_trace_2, ↓sem_trace_3,
        ↓sem_trace_4, ↓load_const, cc_iff, ea, and_imm, and_imm_left, ilog2_lit,
        or_eq_zero, or_mod32, or_lt_2p31, Nat.mod_mod, Nat.zero_or, Nat.or_zero,
        Nat.sub_zero, Nat.add_mod_right, lane_eq, Machine.io_eq_get, Nat.xor_self,
        Loc.x.injEq, Loc.g.injEq, Loc.m.injEq, Bool.toNat_eq_zero, Bool.toNat_eq_one,
        Nat.reducePow, Nat.reduceMul, Nat.reduceMod, Nat.reduceAdd, Nat.reduceSub,
        Nat.reduceDiv, Nat.reduceEqDiff, Nat.reduceLTLE, Nat.reduceLeDiff, Nat.reduceLT,
        Nat.reduceGT, Nat.reduceOr, Nat.reduceXor, reduceCtorEq, Bool.not_eq_true',
        Bool.not_eq_true, decide_eq_true_eq, decide_eq_false_iff_not, Bool.and_eq_true,
        Bool.or_eq_true, bne_iff_ne, beq_iff_eq, ne_eq, Bool.not_eq_false',
        Bool.not_eq_false, decide_not, not_not, Bool.decide_eq_true, Bool.false_eq_true,
        Bool.true_eq_false, not_false_eq_true, not_true_eq_false, and_true, true_and,
        and_false, false_and, or_true, true_or, or_false, false_or, not_true,
        not_false_iff, iff_self, true_iff, iff_true, false_iff, iff_false, ite_self,
        decide_eq_decide, decide_False, decide_True, Bool.not_true, Bool.not_false]
  have y1 : (fast_pow.start_1 cpu (fast_pow.entry_1 cpu s)).get (.m 16) = s.arg1 := by
    simp only [Machine.io_eq_get, Nat.reducePow]
    set_option maxRecDepth 8000 in
    simp only [
        ↓reduceIte, ↓fast_pow.pow_start_1_sem, ↓fast_pow.pow_entry_1_sem,
        ↓Machine.get_setx, ↓Machine.get_setg, ↓Machine.get_setstk, ↓Machine.get_enter,
        ↓Machine.get_setFlags, ↓Machine.trace_set, ↓Machine.get_ite, ↓Machine.trace_ite,
        ↓Machine.obs_eq_get, ↓Machine.flags_get, ↓Machine.flags_trace, ↓sem_get_1,
        ↓sem_get_2, ↓sem_get_3, ↓sem_get_4, ↓sem_trace_1, ↓sem_trace_2, ↓sem_trace_3,
        ↓sem_trace_4, ↓load_const, cc_iff, ea, and_imm, and_imm_left, ilog2_lit,
        or_eq_zero, or_mod32, or_lt_2p31, Nat.mod_mod, Nat.zero_or, Nat.or_zero,
        Nat.sub_zero, Nat.add_mod_right, lane_eq, Machine.io_eq_get, Nat.xor_self,
        Loc.x.injEq, Loc.g.injEq, Loc.m.injEq, Bool.toNat_eq_zero, Bool.toNat_eq_one,
        Nat.reducePow, Nat.reduceMul, Nat.reduceMod, Nat.reduceAdd, Nat.reduceSub,
        Nat.reduceDiv, Nat.reduceEqDiff, Nat.reduceLTLE, Nat.reduceLeDiff, Nat.reduceLT,
        Nat.reduceGT, Nat.reduceOr, Nat.reduceXor, reduceCtorEq, Bool.not_eq_true',
        Bool.not_eq_true, decide_eq_true_eq, decide_eq_false_iff_not, Bool.and_eq_true,
        Bool.or_eq_true, bne_iff_ne, beq_iff_eq, ne_eq, Bool.not_eq_false',
        Bool.not_eq_false, decide_not, not_not, Bool.decide_eq_true, Bool.false_eq_true,
        Bool.true_eq_false, not_false_eq_true, not_true_eq_false, and_true, true_and,
        and_false, false_and, or_true, true_or, or_false, false_or, not_true,
        not_false_iff, iff_self, true_iff, iff_true, false_iff, iff_false, ite_self,
        decide_eq_decide, decide_False, decide_True, Bool.not_true, Bool.not_false]
  have step : ∀ k, fast_pow.ReachesMain cpu (fast_pow cpu s) (fast_pow.start_1 cpu (fast_pow.entry_1 cpu s)) k s.arg1 →
      fast_pow.ReachesMain cpu (fast_pow cpu s) s k s.arg1 := by
    intro k h
    obtain ⟨u, p, e, tr, n4, n5, hy, hk⟩ := h
    refine ⟨u, p ++ [Label.start, Label.entry], e, by rw [tr, t1]; simp, ?_, ?_, hy, hk⟩
    · simp [n4]
    · simp [n5]
  have stepa : fast_pow.AvoidsMain (fast_pow cpu s) (fast_pow.start_1 cpu (fast_pow.entry_1 cpu s)) →
      fast_pow.AvoidsMain (fast_pow cpu s) s := by
    intro h
    obtain ⟨l, e, hl⟩ := h
    exact ⟨l ++ [Label.start, Label.entry], by rw [e, t1]; simp, by simp [hl]⟩
  have e0 : fast_pow cpu s = fast_pow.B1_2 cpu (fast_pow.start_1 cpu (fast_pow.entry_1 cpu s)) := by
    rw [fast_pow, fast_pow.pow_entry_eq, fast_pow.pow_start_eq]
  obtain ⟨r1, r2⟩ := pow_B1_2_main cpu (fast_pow.start_1 cpu (fast_pow.entry_1 cpu s)) s.arg0 s.arg1 x0 x1 y1
  rw [← e0] at r1 r2
  refine ⟨?_, fun h1 h2 => ⟨fun h => step _ ((r2 h1 h2).1 h), fun h => stepa ((r2 h1 h2).2 h)⟩⟩
  rcases r1 with h | h
  · exact Or.inl (step _ h)
  · exact Or.inr (stepa h)

/-- The filter `cmpl(eax, 624)` of `L_2TAG_PACKET_4_0_2`, for a state with the integer `k` in
`eax` and `y` in its stack slot: the branch to `L_2TAG_PACKET_5_0_2` is not taken exactly when
`-31 ≤ floor(log2(|k| + 1)) + (Ey - 1023) ≤ 7`, and then `|y| * (|k| + 1) < 2^9`. -/
theorem pow_L4_1_filter (cpu : Cpu) (t : Machine) (k : Int) (y : Nat)
    (hk : toInt32 (t.get (.g eax)) = k) (hy : t.get (.m 16) = y)
    (hy64 : y < 18446744073709551616) :
    ((¬ cc_aboveEqual (fast_pow.L_2TAG_PACKET_4_0_2_1 cpu t) = true) ↔
      -31 ≤ (ilog2 (k.natAbs + 1) : Int) + ((f64Exp y : Nat) - 1023) ∧
        (ilog2 (k.natAbs + 1) : Int) + ((f64Exp y : Nat) - 1023) ≤ 7) ∧
    ((¬ cc_aboveEqual (fast_pow.L_2TAG_PACKET_4_0_2_1 cpu t) = true) →
      f64Mag y * (k.natAbs + 1) < 2 ^ 9 * 2 ^ 1075) := by
  have hb := pow_L4_1_branch cpu t
  rw [hk, hy] at hb
  have hE1 : f64Exp y = y / 2 ^ 52 % 2048 := rfl
  refine ⟨?_, ?_⟩
  · rw [hb, hE1]
    omega
  · intro hm
    rw [hb] at hm
    have hv0 : k.natAbs + 1 < 4294967296 := by
      rw [← hk]
      simp only [toInt32]
      split_ifs <;> omega
    have hv := lt_two_pow_ilog2 (k.natAbs + 1) (by omega) hv0
    have hj := ilog2_lt32 _ hv0
    generalize k.natAbs + 1 = v at hv hm hj ⊢
    generalize hEy : y / 2 ^ 52 % 2048 = Ey at hm
    have hE1 : f64Exp y = Ey := hEy
    have hsig : f64Sig y < 2 ^ 53 := by
      simp only [f64Sig, f64Man, Nat.reducePow]
      split_ifs <;> omega
    have hE2 : f64E y = Ey := by
      simp only [f64E, hE1]
      rw [if_neg (by omega)]
    unfold f64Mag
    rw [hE2]
    exact mul_pow_bound _ v Ey (ilog2 v) hsig hv hm.2

/-- When the branch after `cmpl(eax, 624)` is taken the run enters `L_2TAG_PACKET_5_0_2`. -/
theorem pow_L4_taken (cpu : Cpu) (t : Machine)
    (h : cc_aboveEqual (fast_pow.L_2TAG_PACKET_4_0_2_1 cpu t) = true) :
    ∃ l, (fast_pow.L_2TAG_PACKET_4_0_2 cpu t).trace =
      l ++ Label.L_2TAG_PACKET_5_0_2 :: Label.L_2TAG_PACKET_4_0_2 :: t.trace := by
  rw [fast_pow.pow_L_2TAG_PACKET_4_0_2_eq, if_pos h]
  obtain ⟨l, el, -⟩ := descends_lt _ _ _ _
    (fast_pow.pow_L_2TAG_PACKET_5_0_2_descends fast_pow.rank pow_edges_all cpu
      (fast_pow.L_2TAG_PACKET_4_0_2_1 cpu t))
  exact ⟨l, by rw [el, fast_pow.pow_L_2TAG_PACKET_4_0_2_1_trace]⟩

/-- When the branch after `cmpl(eax, 624)` is not taken the run finishes on the main path. -/
theorem pow_L4_direct (cpu : Cpu) (t : Machine)
    (h : ¬ cc_aboveEqual (fast_pow.L_2TAG_PACKET_4_0_2_1 cpu t) = true) :
    fast_pow.L_2TAG_PACKET_4_0_2 cpu t = fast_pow.B1_5 cpu
        (fast_pow.L_2TAG_PACKET_4_0_2_2 cpu (fast_pow.L_2TAG_PACKET_4_0_2_1 cpu t)) ∧
      (fast_pow.L_2TAG_PACKET_4_0_2 cpu t).trace =
        Label.B1_5 :: Label.L_2TAG_PACKET_4_0_2 :: t.trace := by
  rw [fast_pow.pow_L_2TAG_PACKET_4_0_2_eq, if_neg h]
  refine ⟨rfl, ?_⟩
  rw [fast_pow.pow_B1_5_eq, fast_pow.pow_B1_5_1_trace, fast_pow.pow_L_2TAG_PACKET_4_0_2_2_trace,
    fast_pow.pow_L_2TAG_PACKET_4_0_2_1_trace]

end MacroAssembler

namespace MacroAssembler
open XReg GReg Machine

/-! ### `fast_pow` with exponent `±0` -/

theorem fast_pow_zero_nan_run (cpu : Cpu) (s : Machine) (hx : f64IsNaN s.arg0 = true)
    (hy : s.arg1 = 0 ∨ s.arg1 = 0x8000000000000000) :
    (fast_pow cpu s).result = 0x3FF0000000000000 := by
  simp only [f64IsNaN, f64Exp, f64Man, decide_eq_true_eq, Machine.io_eq_get,
    Nat.reducePow] at hx hy
  rw [
      fast_pow, fast_pow.pow_entry_eq, fast_pow.pow_start_eq, fast_pow.pow_B1_2_eq, if_pos,
      fast_pow.pow_L_2TAG_PACKET_0_0_2_eq, if_pos, fast_pow.pow_L_2TAG_PACKET_6_0_2_eq,
      if_neg, if_pos, fast_pow.pow_L_2TAG_PACKET_16_0_2_eq,
      fast_pow.pow_L_2TAG_PACKET_17_0_2_eq, fast_pow.pow_B1_3_eq,
      fast_pow.pow_L_2TAG_PACKET_56_0_2_eq, fast_pow.pow_B1_5_eq]
  · set_option maxRecDepth 8000 in
    simp only [
        ↓reduceIte, ↓fast_pow.pow_B1_5_1_sem, ↓fast_pow.pow_L_2TAG_PACKET_56_0_2_1_sem,
        ↓fast_pow.pow_B1_3_1_sem, ↓fast_pow.pow_L_2TAG_PACKET_17_0_2_1_sem,
        ↓fast_pow.pow_L_2TAG_PACKET_16_0_2_1_sem, ↓fast_pow.pow_L_2TAG_PACKET_6_0_2_2_sem,
        ↓fast_pow.pow_L_2TAG_PACKET_6_0_2_1_sem, ↓fast_pow.pow_L_2TAG_PACKET_0_0_2_1_sem,
        ↓fast_pow.pow_B1_2_1_sem, ↓fast_pow.pow_start_1_sem, ↓fast_pow.pow_entry_1_sem,
        ↓Machine.get_setx, ↓Machine.get_setg, ↓Machine.get_setstk, ↓Machine.get_enter,
        ↓Machine.get_setFlags, ↓Machine.trace_set, ↓Machine.get_ite, ↓Machine.trace_ite,
        ↓Machine.obs_eq_get, ↓Machine.flags_get, ↓Machine.flags_trace, ↓sem_get_1,
        ↓sem_get_2, ↓sem_get_3, ↓sem_get_4, ↓sem_trace_1, ↓sem_trace_2, ↓sem_trace_3,
        ↓sem_trace_4, ↓load_const, cc_iff, ea, and_imm, and_imm_left, ilog2_lit,
        or_eq_zero, or_mod32, or_lt_2p31, Nat.mod_mod, Nat.zero_or, Nat.or_zero,
        Nat.sub_zero, Nat.add_mod_right, lane_eq, Machine.io_eq_get, Nat.xor_self,
        Loc.x.injEq, Loc.g.injEq, Loc.m.injEq, Bool.toNat_eq_zero, Bool.toNat_eq_one,
        Nat.reducePow, Nat.reduceMul, Nat.reduceMod, Nat.reduceAdd, Nat.reduceSub,
        Nat.reduceDiv, Nat.reduceEqDiff, Nat.reduceLTLE, Nat.reduceLeDiff, Nat.reduceLT,
        Nat.reduceGT, Nat.reduceOr, Nat.reduceXor, reduceCtorEq, Bool.not_eq_true',
        Bool.not_eq_true, decide_eq_true_eq, decide_eq_false_iff_not, Bool.and_eq_true,
        Bool.or_eq_true, bne_iff_ne, beq_iff_eq, ne_eq, Bool.not_eq_false',
        Bool.not_eq_false, decide_not, not_not, Bool.decide_eq_true, Bool.false_eq_true,
        Bool.true_eq_false, not_false_eq_true, not_true_eq_false, and_true, true_and,
        and_false, false_and, or_true, true_or, or_false, false_or, not_true,
        not_false_iff, iff_self, true_iff, iff_true, false_iff, iff_false, ite_self,
        decide_eq_decide, decide_False, decide_True, Bool.not_true, Bool.not_false]
  · set_option maxRecDepth 8000 in
    simp only [
        ↓reduceIte, ↓fast_pow.pow_L_2TAG_PACKET_6_0_2_2_sem,
        ↓fast_pow.pow_L_2TAG_PACKET_6_0_2_1_sem, ↓fast_pow.pow_L_2TAG_PACKET_0_0_2_1_sem,
        ↓fast_pow.pow_B1_2_1_sem, ↓fast_pow.pow_start_1_sem, ↓fast_pow.pow_entry_1_sem,
        ↓Machine.get_setx, ↓Machine.get_setg, ↓Machine.get_setstk, ↓Machine.get_enter,
        ↓Machine.get_setFlags, ↓Machine.trace_set, ↓Machine.get_ite, ↓Machine.trace_ite,
        ↓Machine.obs_eq_get, ↓Machine.flags_get, ↓Machine.flags_trace, ↓sem_get_1,
        ↓sem_get_2, ↓sem_get_3, ↓sem_get_4, ↓sem_trace_1, ↓sem_trace_2, ↓sem_trace_3,
        ↓sem_trace_4, ↓load_const, cc_iff, ea, and_imm, and_imm_left, ilog2_lit,
        or_eq_zero, or_mod32, or_lt_2p31, Nat.mod_mod, Nat.zero_or, Nat.or_zero,
        Nat.sub_zero, Nat.add_mod_right, lane_eq, Machine.io_eq_get, Nat.xor_self,
        Loc.x.injEq, Loc.g.injEq, Loc.m.injEq, Bool.toNat_eq_zero, Bool.toNat_eq_one,
        Nat.reducePow, Nat.reduceMul, Nat.reduceMod, Nat.reduceAdd, Nat.reduceSub,
        Nat.reduceDiv, Nat.reduceEqDiff, Nat.reduceLTLE, Nat.reduceLeDiff, Nat.reduceLT,
        Nat.reduceGT, Nat.reduceOr, Nat.reduceXor, reduceCtorEq, Bool.not_eq_true',
        Bool.not_eq_true, decide_eq_true_eq, decide_eq_false_iff_not, Bool.and_eq_true,
        Bool.or_eq_true, bne_iff_ne, beq_iff_eq, ne_eq, Bool.not_eq_false',
        Bool.not_eq_false, decide_not, not_not, Bool.decide_eq_true, Bool.false_eq_true,
        Bool.true_eq_false, not_false_eq_true, not_true_eq_false, and_true, true_and,
        and_false, false_and, or_true, true_or, or_false, false_or, not_true,
        not_false_iff, iff_self, true_iff, iff_true, false_iff, iff_false, ite_self,
        decide_eq_decide, decide_False, decide_True, Bool.not_true, Bool.not_false]
    all_goals omega
  · set_option maxRecDepth 8000 in
    simp only [
        ↓reduceIte, ↓fast_pow.pow_L_2TAG_PACKET_6_0_2_1_sem,
        ↓fast_pow.pow_L_2TAG_PACKET_0_0_2_1_sem, ↓fast_pow.pow_B1_2_1_sem,
        ↓fast_pow.pow_start_1_sem, ↓fast_pow.pow_entry_1_sem, ↓Machine.get_setx,
        ↓Machine.get_setg, ↓Machine.get_setstk, ↓Machine.get_enter, ↓Machine.get_setFlags,
        ↓Machine.trace_set, ↓Machine.get_ite, ↓Machine.trace_ite, ↓Machine.obs_eq_get,
        ↓Machine.flags_get, ↓Machine.flags_trace, ↓sem_get_1, ↓sem_get_2, ↓sem_get_3,
        ↓sem_get_4, ↓sem_trace_1, ↓sem_trace_2, ↓sem_trace_3, ↓sem_trace_4, ↓load_const,
        cc_iff, ea, and_imm, and_imm_left, ilog2_lit, or_eq_zero, or_mod32, or_lt_2p31,
        Nat.mod_mod, Nat.zero_or, Nat.or_zero, Nat.sub_zero, Nat.add_mod_right, lane_eq,
        Machine.io_eq_get, Nat.xor_self, Loc.x.injEq, Loc.g.injEq, Loc.m.injEq,
        Bool.toNat_eq_zero, Bool.toNat_eq_one, Nat.reducePow, Nat.reduceMul,
        Nat.reduceMod, Nat.reduceAdd, Nat.reduceSub, Nat.reduceDiv, Nat.reduceEqDiff,
        Nat.reduceLTLE, Nat.reduceLeDiff, Nat.reduceLT, Nat.reduceGT, Nat.reduceOr,
        Nat.reduceXor, reduceCtorEq, Bool.not_eq_true', Bool.not_eq_true,
        decide_eq_true_eq, decide_eq_false_iff_not, Bool.and_eq_true, Bool.or_eq_true,
        bne_iff_ne, beq_iff_eq, ne_eq, Bool.not_eq_false', Bool.not_eq_false, decide_not,
        not_not, Bool.decide_eq_true, Bool.false_eq_true, Bool.true_eq_false,
        not_false_eq_true, not_true_eq_false, and_true, true_and, and_false, false_and,
        or_true, true_or, or_false, false_or, not_true, not_false_iff, iff_self, true_iff,
        iff_true, false_iff, iff_false, ite_self, decide_eq_decide, decide_False,
        decide_True, Bool.not_true, Bool.not_false]
    all_goals omega
  · set_option maxRecDepth 8000 in
    simp only [
        ↓reduceIte, ↓fast_pow.pow_L_2TAG_PACKET_0_0_2_1_sem, ↓fast_pow.pow_B1_2_1_sem,
        ↓fast_pow.pow_start_1_sem, ↓fast_pow.pow_entry_1_sem, ↓Machine.get_setx,
        ↓Machine.get_setg, ↓Machine.get_setstk, ↓Machine.get_enter, ↓Machine.get_setFlags,
        ↓Machine.trace_set, ↓Machine.get_ite, ↓Machine.trace_ite, ↓Machine.obs_eq_get,
        ↓Machine.flags_get, ↓Machine.flags_trace, ↓sem_get_1, ↓sem_get_2, ↓sem_get_3,
        ↓sem_get_4, ↓sem_trace_1, ↓sem_trace_2, ↓sem_trace_3, ↓sem_trace_4, ↓load_const,
        cc_iff, ea, and_imm, and_imm_left, ilog2_lit, or_eq_zero, or_mod32, or_lt_2p31,
        Nat.mod_mod, Nat.zero_or, Nat.or_zero, Nat.sub_zero, Nat.add_mod_right, lane_eq,
        Machine.io_eq_get, Nat.xor_self, Loc.x.injEq, Loc.g.injEq, Loc.m.injEq,
        Bool.toNat_eq_zero, Bool.toNat_eq_one, Nat.reducePow, Nat.reduceMul,
        Nat.reduceMod, Nat.reduceAdd, Nat.reduceSub, Nat.reduceDiv, Nat.reduceEqDiff,
        Nat.reduceLTLE, Nat.reduceLeDiff, Nat.reduceLT, Nat.reduceGT, Nat.reduceOr,
        Nat.reduceXor, reduceCtorEq, Bool.not_eq_true', Bool.not_eq_true,
        decide_eq_true_eq, decide_eq_false_iff_not, Bool.and_eq_true, Bool.or_eq_true,
        bne_iff_ne, beq_iff_eq, ne_eq, Bool.not_eq_false', Bool.not_eq_false, decide_not,
        not_not, Bool.decide_eq_true, Bool.false_eq_true, Bool.true_eq_false,
        not_false_eq_true, not_true_eq_false, and_true, true_and, and_false, false_and,
        or_true, true_or, or_false, false_or, not_true, not_false_iff, iff_self, true_iff,
        iff_true, false_iff, iff_false, ite_self, decide_eq_decide, decide_False,
        decide_True, Bool.not_true, Bool.not_false]
    all_goals omega
  · set_option maxRecDepth 8000 in
    simp only [
        ↓reduceIte, ↓fast_pow.pow_B1_2_1_sem, ↓fast_pow.pow_start_1_sem,
        ↓fast_pow.pow_entry_1_sem, ↓Machine.get_setx, ↓Machine.get_setg,
        ↓Machine.get_setstk, ↓Machine.get_enter, ↓Machine.get_setFlags,
        ↓Machine.trace_set, ↓Machine.get_ite, ↓Machine.trace_ite, ↓Machine.obs_eq_get,
        ↓Machine.flags_get, ↓Machine.flags_trace, ↓sem_get_1, ↓sem_get_2, ↓sem_get_3,
        ↓sem_get_4, ↓sem_trace_1, ↓sem_trace_2, ↓sem_trace_3, ↓sem_trace_4, ↓load_const,
        cc_iff, ea, and_imm, and_imm_left, ilog2_lit, or_eq_zero, or_mod32, or_lt_2p31,
        Nat.mod_mod, Nat.zero_or, Nat.or_zero, Nat.sub_zero, Nat.add_mod_right, lane_eq,
        Machine.io_eq_get, Nat.xor_self, Loc.x.injEq, Loc.g.injEq, Loc.m.injEq,
        Bool.toNat_eq_zero, Bool.toNat_eq_one, Nat.reducePow, Nat.reduceMul,
        Nat.reduceMod, Nat.reduceAdd, Nat.reduceSub, Nat.reduceDiv, Nat.reduceEqDiff,
        Nat.reduceLTLE, Nat.reduceLeDiff, Nat.reduceLT, Nat.reduceGT, Nat.reduceOr,
        Nat.reduceXor, reduceCtorEq, Bool.not_eq_true', Bool.not_eq_true,
        decide_eq_true_eq, decide_eq_false_iff_not, Bool.and_eq_true, Bool.or_eq_true,
        bne_iff_ne, beq_iff_eq, ne_eq, Bool.not_eq_false', Bool.not_eq_false, decide_not,
        not_not, Bool.decide_eq_true, Bool.false_eq_true, Bool.true_eq_false,
        not_false_eq_true, not_true_eq_false, and_true, true_and, and_false, false_and,
        or_true, true_or, or_false, false_or, not_true, not_false_iff, iff_self, true_iff,
        iff_true, false_iff, iff_false, ite_self, decide_eq_decide, decide_False,
        decide_True, Bool.not_true, Bool.not_false]
    all_goals omega

theorem fast_pow_zero_inf_run (cpu : Cpu) (s : Machine)
    (hx : s.arg0 = 0x7FF0000000000000 ∨ s.arg0 = 0xFFF0000000000000)
    (hy : s.arg1 = 0 ∨ s.arg1 = 0x8000000000000000) :
    (fast_pow cpu s).result = 0x3FF0000000000000 := by
  simp only [Machine.io_eq_get, Nat.reducePow] at hx hy
  rw [
      fast_pow, fast_pow.pow_entry_eq, fast_pow.pow_start_eq, fast_pow.pow_B1_2_eq, if_pos,
      fast_pow.pow_L_2TAG_PACKET_0_0_2_eq, if_pos, fast_pow.pow_L_2TAG_PACKET_6_0_2_eq,
      if_pos, fast_pow.pow_L_2TAG_PACKET_15_0_2_eq, if_pos,
      fast_pow.pow_L_2TAG_PACKET_19_0_2_eq, fast_pow.pow_B1_5_eq]
  · set_option maxRecDepth 8000 in
    simp only [
        ↓reduceIte, ↓fast_pow.pow_B1_5_1_sem, ↓fast_pow.pow_L_2TAG_PACKET_19_0_2_1_sem,
        ↓fast_pow.pow_L_2TAG_PACKET_15_0_2_1_sem, ↓fast_pow.pow_L_2TAG_PACKET_6_0_2_1_sem,
        ↓fast_pow.pow_L_2TAG_PACKET_0_0_2_1_sem, ↓fast_pow.pow_B1_2_1_sem,
        ↓fast_pow.pow_start_1_sem, ↓fast_pow.pow_entry_1_sem, ↓Machine.get_setx,
        ↓Machine.get_setg, ↓Machine.get_setstk, ↓Machine.get_enter, ↓Machine.get_setFlags,
        ↓Machine.trace_set, ↓Machine.get_ite, ↓Machine.trace_ite, ↓Machine.obs_eq_get,
        ↓Machine.flags_get, ↓Machine.flags_trace, ↓sem_get_1, ↓sem_get_2, ↓sem_get_3,
        ↓sem_get_4, ↓sem_trace_1, ↓sem_trace_2, ↓sem_trace_3, ↓sem_trace_4, ↓load_const,
        cc_iff, ea, and_imm, and_imm_left, ilog2_lit, or_eq_zero, or_mod32, or_lt_2p31,
        Nat.mod_mod, Nat.zero_or, Nat.or_zero, Nat.sub_zero, Nat.add_mod_right, lane_eq,
        Machine.io_eq_get, Nat.xor_self, Loc.x.injEq, Loc.g.injEq, Loc.m.injEq,
        Bool.toNat_eq_zero, Bool.toNat_eq_one, Nat.reducePow, Nat.reduceMul,
        Nat.reduceMod, Nat.reduceAdd, Nat.reduceSub, Nat.reduceDiv, Nat.reduceEqDiff,
        Nat.reduceLTLE, Nat.reduceLeDiff, Nat.reduceLT, Nat.reduceGT, Nat.reduceOr,
        Nat.reduceXor, reduceCtorEq, Bool.not_eq_true', Bool.not_eq_true,
        decide_eq_true_eq, decide_eq_false_iff_not, Bool.and_eq_true, Bool.or_eq_true,
        bne_iff_ne, beq_iff_eq, ne_eq, Bool.not_eq_false', Bool.not_eq_false, decide_not,
        not_not, Bool.decide_eq_true, Bool.false_eq_true, Bool.true_eq_false,
        not_false_eq_true, not_true_eq_false, and_true, true_and, and_false, false_and,
        or_true, true_or, or_false, false_or, not_true, not_false_iff, iff_self, true_iff,
        iff_true, false_iff, iff_false, ite_self, decide_eq_decide, decide_False,
        decide_True, Bool.not_true, Bool.not_false]
  · set_option maxRecDepth 8000 in
    simp only [
        ↓reduceIte, ↓fast_pow.pow_L_2TAG_PACKET_15_0_2_1_sem,
        ↓fast_pow.pow_L_2TAG_PACKET_6_0_2_1_sem, ↓fast_pow.pow_L_2TAG_PACKET_0_0_2_1_sem,
        ↓fast_pow.pow_B1_2_1_sem, ↓fast_pow.pow_start_1_sem, ↓fast_pow.pow_entry_1_sem,
        ↓Machine.get_setx, ↓Machine.get_setg, ↓Machine.get_setstk, ↓Machine.get_enter,
        ↓Machine.get_setFlags, ↓Machine.trace_set, ↓Machine.get_ite, ↓Machine.trace_ite,
        ↓Machine.obs_eq_get, ↓Machine.flags_get, ↓Machine.flags_trace, ↓sem_get_1,
        ↓sem_get_2, ↓sem_get_3, ↓sem_get_4, ↓sem_trace_1, ↓sem_trace_2, ↓sem_trace_3,
        ↓sem_trace_4, ↓load_const, cc_iff, ea, and_imm, and_imm_left, ilog2_lit,
        or_eq_zero, or_mod32, or_lt_2p31, Nat.mod_mod, Nat.zero_or, Nat.or_zero,
        Nat.sub_zero, Nat.add_mod_right, lane_eq, Machine.io_eq_get, Nat.xor_self,
        Loc.x.injEq, Loc.g.injEq, Loc.m.injEq, Bool.toNat_eq_zero, Bool.toNat_eq_one,
        Nat.reducePow, Nat.reduceMul, Nat.reduceMod, Nat.reduceAdd, Nat.reduceSub,
        Nat.reduceDiv, Nat.reduceEqDiff, Nat.reduceLTLE, Nat.reduceLeDiff, Nat.reduceLT,
        Nat.reduceGT, Nat.reduceOr, Nat.reduceXor, reduceCtorEq, Bool.not_eq_true',
        Bool.not_eq_true, decide_eq_true_eq, decide_eq_false_iff_not, Bool.and_eq_true,
        Bool.or_eq_true, bne_iff_ne, beq_iff_eq, ne_eq, Bool.not_eq_false',
        Bool.not_eq_false, decide_not, not_not, Bool.decide_eq_true, Bool.false_eq_true,
        Bool.true_eq_false, not_false_eq_true, not_true_eq_false, and_true, true_and,
        and_false, false_and, or_true, true_or, or_false, false_or, not_true,
        not_false_iff, iff_self, true_iff, iff_true, false_iff, iff_false, ite_self,
        decide_eq_decide, decide_False, decide_True, Bool.not_true, Bool.not_false]
    all_goals omega
  · set_option maxRecDepth 8000 in
    simp only [
        ↓reduceIte, ↓fast_pow.pow_L_2TAG_PACKET_6_0_2_1_sem,
        ↓fast_pow.pow_L_2TAG_PACKET_0_0_2_1_sem, ↓fast_pow.pow_B1_2_1_sem,
        ↓fast_pow.pow_start_1_sem, ↓fast_pow.pow_entry_1_sem, ↓Machine.get_setx,
        ↓Machine.get_setg, ↓Machine.get_setstk, ↓Machine.get_enter, ↓Machine.get_setFlags,
        ↓Machine.trace_set, ↓Machine.get_ite, ↓Machine.trace_ite, ↓Machine.obs_eq_get,
        ↓Machine.flags_get, ↓Machine.flags_trace, ↓sem_get_1, ↓sem_get_2, ↓sem_get_3,
        ↓sem_get_4, ↓sem_trace_1, ↓sem_trace_2, ↓sem_trace_3, ↓sem_trace_4, ↓load_const,
        cc_iff, ea, and_imm, and_imm_left, ilog2_lit, or_eq_zero, or_mod32, or_lt_2p31,
        Nat.mod_mod, Nat.zero_or, Nat.or_zero, Nat.sub_zero, Nat.add_mod_right, lane_eq,
        Machine.io_eq_get, Nat.xor_self, Loc.x.injEq, Loc.g.injEq, Loc.m.injEq,
        Bool.toNat_eq_zero, Bool.toNat_eq_one, Nat.reducePow, Nat.reduceMul,
        Nat.reduceMod, Nat.reduceAdd, Nat.reduceSub, Nat.reduceDiv, Nat.reduceEqDiff,
        Nat.reduceLTLE, Nat.reduceLeDiff, Nat.reduceLT, Nat.reduceGT, Nat.reduceOr,
        Nat.reduceXor, reduceCtorEq, Bool.not_eq_true', Bool.not_eq_true,
        decide_eq_true_eq, decide_eq_false_iff_not, Bool.and_eq_true, Bool.or_eq_true,
        bne_iff_ne, beq_iff_eq, ne_eq, Bool.not_eq_false', Bool.not_eq_false, decide_not,
        not_not, Bool.decide_eq_true, Bool.false_eq_true, Bool.true_eq_false,
        not_false_eq_true, not_true_eq_false, and_true, true_and, and_false, false_and,
        or_true, true_or, or_false, false_or, not_true, not_false_iff, iff_self, true_iff,
        iff_true, false_iff, iff_false, ite_self, decide_eq_decide, decide_False,
        decide_True, Bool.not_true, Bool.not_false]
    all_goals omega
  · set_option maxRecDepth 8000 in
    simp only [
        ↓reduceIte, ↓fast_pow.pow_L_2TAG_PACKET_0_0_2_1_sem, ↓fast_pow.pow_B1_2_1_sem,
        ↓fast_pow.pow_start_1_sem, ↓fast_pow.pow_entry_1_sem, ↓Machine.get_setx,
        ↓Machine.get_setg, ↓Machine.get_setstk, ↓Machine.get_enter, ↓Machine.get_setFlags,
        ↓Machine.trace_set, ↓Machine.get_ite, ↓Machine.trace_ite, ↓Machine.obs_eq_get,
        ↓Machine.flags_get, ↓Machine.flags_trace, ↓sem_get_1, ↓sem_get_2, ↓sem_get_3,
        ↓sem_get_4, ↓sem_trace_1, ↓sem_trace_2, ↓sem_trace_3, ↓sem_trace_4, ↓load_const,
        cc_iff, ea, and_imm, and_imm_left, ilog2_lit, or_eq_zero, or_mod32, or_lt_2p31,
        Nat.mod_mod, Nat.zero_or, Nat.or_zero, Nat.sub_zero, Nat.add_mod_right, lane_eq,
        Machine.io_eq_get, Nat.xor_self, Loc.x.injEq, Loc.g.injEq, Loc.m.injEq,
        Bool.toNat_eq_zero, Bool.toNat_eq_one, Nat.reducePow, Nat.reduceMul,
        Nat.reduceMod, Nat.reduceAdd, Nat.reduceSub, Nat.reduceDiv, Nat.reduceEqDiff,
        Nat.reduceLTLE, Nat.reduceLeDiff, Nat.reduceLT, Nat.reduceGT, Nat.reduceOr,
        Nat.reduceXor, reduceCtorEq, Bool.not_eq_true', Bool.not_eq_true,
        decide_eq_true_eq, decide_eq_false_iff_not, Bool.and_eq_true, Bool.or_eq_true,
        bne_iff_ne, beq_iff_eq, ne_eq, Bool.not_eq_false', Bool.not_eq_false, decide_not,
        not_not, Bool.decide_eq_true, Bool.false_eq_true, Bool.true_eq_false,
        not_false_eq_true, not_true_eq_false, and_true, true_and, and_false, false_and,
        or_true, true_or, or_false, false_or, not_true, not_false_iff, iff_self, true_iff,
        iff_true, false_iff, iff_false, ite_self, decide_eq_decide, decide_False,
        decide_True, Bool.not_true, Bool.not_false]
    all_goals omega
  · set_option maxRecDepth 8000 in
    simp only [
        ↓reduceIte, ↓fast_pow.pow_B1_2_1_sem, ↓fast_pow.pow_start_1_sem,
        ↓fast_pow.pow_entry_1_sem, ↓Machine.get_setx, ↓Machine.get_setg,
        ↓Machine.get_setstk, ↓Machine.get_enter, ↓Machine.get_setFlags,
        ↓Machine.trace_set, ↓Machine.get_ite, ↓Machine.trace_ite, ↓Machine.obs_eq_get,
        ↓Machine.flags_get, ↓Machine.flags_trace, ↓sem_get_1, ↓sem_get_2, ↓sem_get_3,
        ↓sem_get_4, ↓sem_trace_1, ↓sem_trace_2, ↓sem_trace_3, ↓sem_trace_4, ↓load_const,
        cc_iff, ea, and_imm, and_imm_left, ilog2_lit, or_eq_zero, or_mod32, or_lt_2p31,
        Nat.mod_mod, Nat.zero_or, Nat.or_zero, Nat.sub_zero, Nat.add_mod_right, lane_eq,
        Machine.io_eq_get, Nat.xor_self, Loc.x.injEq, Loc.g.injEq, Loc.m.injEq,
        Bool.toNat_eq_zero, Bool.toNat_eq_one, Nat.reducePow, Nat.reduceMul,
        Nat.reduceMod, Nat.reduceAdd, Nat.reduceSub, Nat.reduceDiv, Nat.reduceEqDiff,
        Nat.reduceLTLE, Nat.reduceLeDiff, Nat.reduceLT, Nat.reduceGT, Nat.reduceOr,
        Nat.reduceXor, reduceCtorEq, Bool.not_eq_true', Bool.not_eq_true,
        decide_eq_true_eq, decide_eq_false_iff_not, Bool.and_eq_true, Bool.or_eq_true,
        bne_iff_ne, beq_iff_eq, ne_eq, Bool.not_eq_false', Bool.not_eq_false, decide_not,
        not_not, Bool.decide_eq_true, Bool.false_eq_true, Bool.true_eq_false,
        not_false_eq_true, not_true_eq_false, and_true, true_and, and_false, false_and,
        or_true, true_or, or_false, false_or, not_true, not_false_iff, iff_self, true_iff,
        iff_true, false_iff, iff_false, ite_self, decide_eq_decide, decide_False,
        decide_True, Bool.not_true, Bool.not_false]
    all_goals omega

theorem fast_pow_zero_neg_run (cpu : Cpu) (s : Machine)
    (h1 : 0x8000000000000000 < s.arg0) (h2 : s.arg0 < 0xFFF0000000000000)
    (hy : s.arg1 = 0 ∨ s.arg1 = 0x8000000000000000) :
    (fast_pow cpu s).result = 0x3FF0000000000000 := by
  simp only [Machine.io_eq_get, Nat.reducePow] at h1 h2 hy
  rw [
      fast_pow, fast_pow.pow_entry_eq, fast_pow.pow_start_eq, fast_pow.pow_B1_2_eq, if_pos,
      fast_pow.pow_L_2TAG_PACKET_0_0_2_eq, if_neg, if_pos,
      fast_pow.pow_L_2TAG_PACKET_7_0_2_eq, if_neg, if_pos,
      fast_pow.pow_L_2TAG_PACKET_37_0_2_eq, fast_pow.pow_B1_5_eq]
  · set_option maxRecDepth 8000 in
    simp only [
        ↓reduceIte, ↓fast_pow.pow_B1_5_1_sem, ↓fast_pow.pow_L_2TAG_PACKET_37_0_2_1_sem,
        ↓fast_pow.pow_L_2TAG_PACKET_7_0_2_2_sem, ↓fast_pow.pow_L_2TAG_PACKET_7_0_2_1_sem,
        ↓fast_pow.pow_L_2TAG_PACKET_0_0_2_2_sem, ↓fast_pow.pow_L_2TAG_PACKET_0_0_2_1_sem,
        ↓fast_pow.pow_B1_2_1_sem, ↓fast_pow.pow_start_1_sem, ↓fast_pow.pow_entry_1_sem,
        ↓Machine.get_setx, ↓Machine.get_setg, ↓Machine.get_setstk, ↓Machine.get_enter,
        ↓Machine.get_setFlags, ↓Machine.trace_set, ↓Machine.get_ite, ↓Machine.trace_ite,
        ↓Machine.obs_eq_get, ↓Machine.flags_get, ↓Machine.flags_trace, ↓sem_get_1,
        ↓sem_get_2, ↓sem_get_3, ↓sem_get_4, ↓sem_trace_1, ↓sem_trace_2, ↓sem_trace_3,
        ↓sem_trace_4, ↓load_const, cc_iff, ea, and_imm, and_imm_left, ilog2_lit,
        or_eq_zero, or_mod32, or_lt_2p31, Nat.mod_mod, Nat.zero_or, Nat.or_zero,
        Nat.sub_zero, Nat.add_mod_right, lane_eq, Machine.io_eq_get, Nat.xor_self,
        Loc.x.injEq, Loc.g.injEq, Loc.m.injEq, Bool.toNat_eq_zero, Bool.toNat_eq_one,
        Nat.reducePow, Nat.reduceMul, Nat.reduceMod, Nat.reduceAdd, Nat.reduceSub,
        Nat.reduceDiv, Nat.reduceEqDiff, Nat.reduceLTLE, Nat.reduceLeDiff, Nat.reduceLT,
        Nat.reduceGT, Nat.reduceOr, Nat.reduceXor, reduceCtorEq, Bool.not_eq_true',
        Bool.not_eq_true, decide_eq_true_eq, decide_eq_false_iff_not, Bool.and_eq_true,
        Bool.or_eq_true, bne_iff_ne, beq_iff_eq, ne_eq, Bool.not_eq_false',
        Bool.not_eq_false, decide_not, not_not, Bool.decide_eq_true, Bool.false_eq_true,
        Bool.true_eq_false, not_false_eq_true, not_true_eq_false, and_true, true_and,
        and_false, false_and, or_true, true_or, or_false, false_or, not_true,
        not_false_iff, iff_self, true_iff, iff_true, false_iff, iff_false, ite_self,
        decide_eq_decide, decide_False, decide_True, Bool.not_true, Bool.not_false]
  · set_option maxRecDepth 8000 in
    simp only [
        ↓reduceIte, ↓fast_pow.pow_L_2TAG_PACKET_7_0_2_2_sem,
        ↓fast_pow.pow_L_2TAG_PACKET_7_0_2_1_sem, ↓fast_pow.pow_L_2TAG_PACKET_0_0_2_2_sem,
        ↓fast_pow.pow_L_2TAG_PACKET_0_0_2_1_sem, ↓fast_pow.pow_B1_2_1_sem,
        ↓fast_pow.pow_start_1_sem, ↓fast_pow.pow_entry_1_sem, ↓Machine.get_setx,
        ↓Machine.get_setg, ↓Machine.get_setstk, ↓Machine.get_enter, ↓Machine.get_setFlags,
        ↓Machine.trace_set, ↓Machine.get_ite, ↓Machine.trace_ite, ↓Machine.obs_eq_get,
        ↓Machine.flags_get, ↓Machine.flags_trace, ↓sem_get_1, ↓sem_get_2, ↓sem_get_3,
        ↓sem_get_4, ↓sem_trace_1, ↓sem_trace_2, ↓sem_trace_3, ↓sem_trace_4, ↓load_const,
        cc_iff, ea, and_imm, and_imm_left, ilog2_lit, or_eq_zero, or_mod32, or_lt_2p31,
        Nat.mod_mod, Nat.zero_or, Nat.or_zero, Nat.sub_zero, Nat.add_mod_right, lane_eq,
        Machine.io_eq_get, Nat.xor_self, Loc.x.injEq, Loc.g.injEq, Loc.m.injEq,
        Bool.toNat_eq_zero, Bool.toNat_eq_one, Nat.reducePow, Nat.reduceMul,
        Nat.reduceMod, Nat.reduceAdd, Nat.reduceSub, Nat.reduceDiv, Nat.reduceEqDiff,
        Nat.reduceLTLE, Nat.reduceLeDiff, Nat.reduceLT, Nat.reduceGT, Nat.reduceOr,
        Nat.reduceXor, reduceCtorEq, Bool.not_eq_true', Bool.not_eq_true,
        decide_eq_true_eq, decide_eq_false_iff_not, Bool.and_eq_true, Bool.or_eq_true,
        bne_iff_ne, beq_iff_eq, ne_eq, Bool.not_eq_false', Bool.not_eq_false, decide_not,
        not_not, Bool.decide_eq_true, Bool.false_eq_true, Bool.true_eq_false,
        not_false_eq_true, not_true_eq_false, and_true, true_and, and_false, false_and,
        or_true, true_or, or_false, false_or, not_true, not_false_iff, iff_self, true_iff,
        iff_true, false_iff, iff_false, ite_self, decide_eq_decide, decide_False,
        decide_True, Bool.not_true, Bool.not_false]
    all_goals omega
  · set_option maxRecDepth 8000 in
    simp only [
        ↓reduceIte, ↓fast_pow.pow_L_2TAG_PACKET_7_0_2_1_sem,
        ↓fast_pow.pow_L_2TAG_PACKET_0_0_2_2_sem, ↓fast_pow.pow_L_2TAG_PACKET_0_0_2_1_sem,
        ↓fast_pow.pow_B1_2_1_sem, ↓fast_pow.pow_start_1_sem, ↓fast_pow.pow_entry_1_sem,
        ↓Machine.get_setx, ↓Machine.get_setg, ↓Machine.get_setstk, ↓Machine.get_enter,
        ↓Machine.get_setFlags, ↓Machine.trace_set, ↓Machine.get_ite, ↓Machine.trace_ite,
        ↓Machine.obs_eq_get, ↓Machine.flags_get, ↓Machine.flags_trace, ↓sem_get_1,
        ↓sem_get_2, ↓sem_get_3, ↓sem_get_4, ↓sem_trace_1, ↓sem_trace_2, ↓sem_trace_3,
        ↓sem_trace_4, ↓load_const, cc_iff, ea, and_imm, and_imm_left, ilog2_lit,
        or_eq_zero, or_mod32, or_lt_2p31, Nat.mod_mod, Nat.zero_or, Nat.or_zero,
        Nat.sub_zero, Nat.add_mod_right, lane_eq, Machine.io_eq_get, Nat.xor_self,
        Loc.x.injEq, Loc.g.injEq, Loc.m.injEq, Bool.toNat_eq_zero, Bool.toNat_eq_one,
        Nat.reducePow, Nat.reduceMul, Nat.reduceMod, Nat.reduceAdd, Nat.reduceSub,
        Nat.reduceDiv, Nat.reduceEqDiff, Nat.reduceLTLE, Nat.reduceLeDiff, Nat.reduceLT,
        Nat.reduceGT, Nat.reduceOr, Nat.reduceXor, reduceCtorEq, Bool.not_eq_true',
        Bool.not_eq_true, decide_eq_true_eq, decide_eq_false_iff_not, Bool.and_eq_true,
        Bool.or_eq_true, bne_iff_ne, beq_iff_eq, ne_eq, Bool.not_eq_false',
        Bool.not_eq_false, decide_not, not_not, Bool.decide_eq_true, Bool.false_eq_true,
        Bool.true_eq_false, not_false_eq_true, not_true_eq_false, and_true, true_and,
        and_false, false_and, or_true, true_or, or_false, false_or, not_true,
        not_false_iff, iff_self, true_iff, iff_true, false_iff, iff_false, ite_self,
        decide_eq_decide, decide_False, decide_True, Bool.not_true, Bool.not_false]
    all_goals omega
  · set_option maxRecDepth 8000 in
    simp only [
        ↓reduceIte, ↓fast_pow.pow_L_2TAG_PACKET_0_0_2_2_sem,
        ↓fast_pow.pow_L_2TAG_PACKET_0_0_2_1_sem, ↓fast_pow.pow_B1_2_1_sem,
        ↓fast_pow.pow_start_1_sem, ↓fast_pow.pow_entry_1_sem, ↓Machine.get_setx,
        ↓Machine.get_setg, ↓Machine.get_setstk, ↓Machine.get_enter, ↓Machine.get_setFlags,
        ↓Machine.trace_set, ↓Machine.get_ite, ↓Machine.trace_ite, ↓Machine.obs_eq_get,
        ↓Machine.flags_get, ↓Machine.flags_trace, ↓sem_get_1, ↓sem_get_2, ↓sem_get_3,
        ↓sem_get_4, ↓sem_trace_1, ↓sem_trace_2, ↓sem_trace_3, ↓sem_trace_4, ↓load_const,
        cc_iff, ea, and_imm, and_imm_left, ilog2_lit, or_eq_zero, or_mod32, or_lt_2p31,
        Nat.mod_mod, Nat.zero_or, Nat.or_zero, Nat.sub_zero, Nat.add_mod_right, lane_eq,
        Machine.io_eq_get, Nat.xor_self, Loc.x.injEq, Loc.g.injEq, Loc.m.injEq,
        Bool.toNat_eq_zero, Bool.toNat_eq_one, Nat.reducePow, Nat.reduceMul,
        Nat.reduceMod, Nat.reduceAdd, Nat.reduceSub, Nat.reduceDiv, Nat.reduceEqDiff,
        Nat.reduceLTLE, Nat.reduceLeDiff, Nat.reduceLT, Nat.reduceGT, Nat.reduceOr,
        Nat.reduceXor, reduceCtorEq, Bool.not_eq_true', Bool.not_eq_true,
        decide_eq_true_eq, decide_eq_false_iff_not, Bool.and_eq_true, Bool.or_eq_true,
        bne_iff_ne, beq_iff_eq, ne_eq, Bool.not_eq_false', Bool.not_eq_false, decide_not,
        not_not, Bool.decide_eq_true, Bool.false_eq_true, Bool.true_eq_false,
        not_false_eq_true, not_true_eq_false, and_true, true_and, and_false, false_and,
        or_true, true_or, or_false, false_or, not_true, not_false_iff, iff_self, true_iff,
        iff_true, false_iff, iff_false, ite_self, decide_eq_decide, decide_False,
        decide_True, Bool.not_true, Bool.not_false]
    all_goals omega
  · set_option maxRecDepth 8000 in
    simp only [
        ↓reduceIte, ↓fast_pow.pow_L_2TAG_PACKET_0_0_2_1_sem, ↓fast_pow.pow_B1_2_1_sem,
        ↓fast_pow.pow_start_1_sem, ↓fast_pow.pow_entry_1_sem, ↓Machine.get_setx,
        ↓Machine.get_setg, ↓Machine.get_setstk, ↓Machine.get_enter, ↓Machine.get_setFlags,
        ↓Machine.trace_set, ↓Machine.get_ite, ↓Machine.trace_ite, ↓Machine.obs_eq_get,
        ↓Machine.flags_get, ↓Machine.flags_trace, ↓sem_get_1, ↓sem_get_2, ↓sem_get_3,
        ↓sem_get_4, ↓sem_trace_1, ↓sem_trace_2, ↓sem_trace_3, ↓sem_trace_4, ↓load_const,
        cc_iff, ea, and_imm, and_imm_left, ilog2_lit, or_eq_zero, or_mod32, or_lt_2p31,
        Nat.mod_mod, Nat.zero_or, Nat.or_zero, Nat.sub_zero, Nat.add_mod_right, lane_eq,
        Machine.io_eq_get, Nat.xor_self, Loc.x.injEq, Loc.g.injEq, Loc.m.injEq,
        Bool.toNat_eq_zero, Bool.toNat_eq_one, Nat.reducePow, Nat.reduceMul,
        Nat.reduceMod, Nat.reduceAdd, Nat.reduceSub, Nat.reduceDiv, Nat.reduceEqDiff,
        Nat.reduceLTLE, Nat.reduceLeDiff, Nat.reduceLT, Nat.reduceGT, Nat.reduceOr,
        Nat.reduceXor, reduceCtorEq, Bool.not_eq_true', Bool.not_eq_true,
        decide_eq_true_eq, decide_eq_false_iff_not, Bool.and_eq_true, Bool.or_eq_true,
        bne_iff_ne, beq_iff_eq, ne_eq, Bool.not_eq_false', Bool.not_eq_false, decide_not,
        not_not, Bool.decide_eq_true, Bool.false_eq_true, Bool.true_eq_false,
        not_false_eq_true, not_true_eq_false, and_true, true_and, and_false, false_and,
        or_true, true_or, or_false, false_or, not_true, not_false_iff, iff_self, true_iff,
        iff_true, false_iff, iff_false, ite_self, decide_eq_decide, decide_False,
        decide_True, Bool.not_true, Bool.not_false]
    all_goals omega
  · set_option maxRecDepth 8000 in
    simp only [
        ↓reduceIte, ↓fast_pow.pow_B1_2_1_sem, ↓fast_pow.pow_start_1_sem,
        ↓fast_pow.pow_entry_1_sem, ↓Machine.get_setx, ↓Machine.get_setg,
        ↓Machine.get_setstk, ↓Machine.get_enter, ↓Machine.get_setFlags,
        ↓Machine.trace_set, ↓Machine.get_ite, ↓Machine.trace_ite, ↓Machine.obs_eq_get,
        ↓Machine.flags_get, ↓Machine.flags_trace, ↓sem_get_1, ↓sem_get_2, ↓sem_get_3,
        ↓sem_get_4, ↓sem_trace_1, ↓sem_trace_2, ↓sem_trace_3, ↓sem_trace_4, ↓load_const,
        cc_iff, ea, and_imm, and_imm_left, ilog2_lit, or_eq_zero, or_mod32, or_lt_2p31,
        Nat.mod_mod, Nat.zero_or, Nat.or_zero, Nat.sub_zero, Nat.add_mod_right, lane_eq,
        Machine.io_eq_get, Nat.xor_self, Loc.x.injEq, Loc.g.injEq, Loc.m.injEq,
        Bool.toNat_eq_zero, Bool.toNat_eq_one, Nat.reducePow, Nat.reduceMul,
        Nat.reduceMod, Nat.reduceAdd, Nat.reduceSub, Nat.reduceDiv, Nat.reduceEqDiff,
        Nat.reduceLTLE, Nat.reduceLeDiff, Nat.reduceLT, Nat.reduceGT, Nat.reduceOr,
        Nat.reduceXor, reduceCtorEq, Bool.not_eq_true', Bool.not_eq_true,
        decide_eq_true_eq, decide_eq_false_iff_not, Bool.and_eq_true, Bool.or_eq_true,
        bne_iff_ne, beq_iff_eq, ne_eq, Bool.not_eq_false', Bool.not_eq_false, decide_not,
        not_not, Bool.decide_eq_true, Bool.false_eq_true, Bool.true_eq_false,
        not_false_eq_true, not_true_eq_false, and_true, true_and, and_false, false_and,
        or_true, true_or, or_false, false_or, not_true, not_false_iff, iff_self, true_iff,
        iff_true, false_iff, iff_false, ite_self, decide_eq_decide, decide_False,
        decide_True, Bool.not_true, Bool.not_false]
    all_goals omega

theorem fast_pow_zero_nzero_run (cpu : Cpu) (s : Machine)
    (hx : s.arg0 = 0x8000000000000000)
    (hy : s.arg1 = 0 ∨ s.arg1 = 0x8000000000000000) :
    (fast_pow cpu s).result = 0x3FF0000000000000 := by
  simp only [Machine.io_eq_get, Nat.reducePow] at hx hy
  rw [
      fast_pow, fast_pow.pow_entry_eq, fast_pow.pow_start_eq, fast_pow.pow_B1_2_eq, if_pos,
      fast_pow.pow_L_2TAG_PACKET_0_0_2_eq, if_neg, if_pos,
      fast_pow.pow_L_2TAG_PACKET_7_0_2_eq, if_pos, fast_pow.pow_L_2TAG_PACKET_9_0_2_eq,
      if_pos, fast_pow.pow_L_2TAG_PACKET_40_0_2_eq, if_pos,
      fast_pow.pow_L_2TAG_PACKET_39_0_2_eq, fast_pow.pow_L_2TAG_PACKET_17_0_2_eq,
      fast_pow.pow_B1_3_eq, fast_pow.pow_L_2TAG_PACKET_56_0_2_eq, fast_pow.pow_B1_5_eq]
  · set_option maxRecDepth 8000 in
    simp only [
        ↓reduceIte, ↓fast_pow.pow_B1_5_1_sem, ↓fast_pow.pow_L_2TAG_PACKET_56_0_2_1_sem,
        ↓fast_pow.pow_B1_3_1_sem, ↓fast_pow.pow_L_2TAG_PACKET_17_0_2_1_sem,
        ↓fast_pow.pow_L_2TAG_PACKET_39_0_2_1_sem,
        ↓fast_pow.pow_L_2TAG_PACKET_40_0_2_1_sem, ↓fast_pow.pow_L_2TAG_PACKET_9_0_2_1_sem,
        ↓fast_pow.pow_L_2TAG_PACKET_7_0_2_1_sem, ↓fast_pow.pow_L_2TAG_PACKET_0_0_2_2_sem,
        ↓fast_pow.pow_L_2TAG_PACKET_0_0_2_1_sem, ↓fast_pow.pow_B1_2_1_sem,
        ↓fast_pow.pow_start_1_sem, ↓fast_pow.pow_entry_1_sem, ↓Machine.get_setx,
        ↓Machine.get_setg, ↓Machine.get_setstk, ↓Machine.get_enter, ↓Machine.get_setFlags,
        ↓Machine.trace_set, ↓Machine.get_ite, ↓Machine.trace_ite, ↓Machine.obs_eq_get,
        ↓Machine.flags_get, ↓Machine.flags_trace, ↓sem_get_1, ↓sem_get_2, ↓sem_get_3,
        ↓sem_get_4, ↓sem_trace_1, ↓sem_trace_2, ↓sem_trace_3, ↓sem_trace_4, ↓load_const,
        cc_iff, ea, and_imm, and_imm_left, ilog2_lit, or_eq_zero, or_mod32, or_lt_2p31,
        Nat.mod_mod, Nat.zero_or, Nat.or_zero, Nat.sub_zero, Nat.add_mod_right, lane_eq,
        Machine.io_eq_get, Nat.xor_self, Loc.x.injEq, Loc.g.injEq, Loc.m.injEq,
        Bool.toNat_eq_zero, Bool.toNat_eq_one, Nat.reducePow, Nat.reduceMul,
        Nat.reduceMod, Nat.reduceAdd, Nat.reduceSub, Nat.reduceDiv, Nat.reduceEqDiff,
        Nat.reduceLTLE, Nat.reduceLeDiff, Nat.reduceLT, Nat.reduceGT, Nat.reduceOr,
        Nat.reduceXor, reduceCtorEq, Bool.not_eq_true', Bool.not_eq_true,
        decide_eq_true_eq, decide_eq_false_iff_not, Bool.and_eq_true, Bool.or_eq_true,
        bne_iff_ne, beq_iff_eq, ne_eq, Bool.not_eq_false', Bool.not_eq_false, decide_not,
        not_not, Bool.decide_eq_true, Bool.false_eq_true, Bool.true_eq_false,
        not_false_eq_true, not_true_eq_false, and_true, true_and, and_false, false_and,
        or_true, true_or, or_false, false_or, not_true, not_false_iff, iff_self, true_iff,
        iff_true, false_iff, iff_false, ite_self, decide_eq_decide, decide_False,
        decide_True, Bool.not_true, Bool.not_false]
  · set_option maxRecDepth 8000 in
    simp only [
        ↓reduceIte, ↓fast_pow.pow_L_2TAG_PACKET_40_0_2_1_sem,
        ↓fast_pow.pow_L_2TAG_PACKET_9_0_2_1_sem, ↓fast_pow.pow_L_2TAG_PACKET_7_0_2_1_sem,
        ↓fast_pow.pow_L_2TAG_PACKET_0_0_2_2_sem, ↓fast_pow.pow_L_2TAG_PACKET_0_0_2_1_sem,
        ↓fast_pow.pow_B1_2_1_sem, ↓fast_pow.pow_start_1_sem, ↓fast_pow.pow_entry_1_sem,
        ↓Machine.get_setx, ↓Machine.get_setg, ↓Machine.get_setstk, ↓Machine.get_enter,
        ↓Machine.get_setFlags, ↓Machine.trace_set, ↓Machine.get_ite, ↓Machine.trace_ite,
        ↓Machine.obs_eq_get, ↓Machine.flags_get, ↓Machine.flags_trace, ↓sem_get_1,
        ↓sem_get_2, ↓sem_get_3, ↓sem_get_4, ↓sem_trace_1, ↓sem_trace_2, ↓sem_trace_3,
        ↓sem_trace_4, ↓load_const, cc_iff, ea, and_imm, and_imm_left, ilog2_lit,
        or_eq_zero, or_mod32, or_lt_2p31, Nat.mod_mod, Nat.zero_or, Nat.or_zero,
        Nat.sub_zero, Nat.add_mod_right, lane_eq, Machine.io_eq_get, Nat.xor_self,
        Loc.x.injEq, Loc.g.injEq, Loc.m.injEq, Bool.toNat_eq_zero, Bool.toNat_eq_one,
        Nat.reducePow, Nat.reduceMul, Nat.reduceMod, Nat.reduceAdd, Nat.reduceSub,
        Nat.reduceDiv, Nat.reduceEqDiff, Nat.reduceLTLE, Nat.reduceLeDiff, Nat.reduceLT,
        Nat.reduceGT, Nat.reduceOr, Nat.reduceXor, reduceCtorEq, Bool.not_eq_true',
        Bool.not_eq_true, decide_eq_true_eq, decide_eq_false_iff_not, Bool.and_eq_true,
        Bool.or_eq_true, bne_iff_ne, beq_iff_eq, ne_eq, Bool.not_eq_false',
        Bool.not_eq_false, decide_not, not_not, Bool.decide_eq_true, Bool.false_eq_true,
        Bool.true_eq_false, not_false_eq_true, not_true_eq_false, and_true, true_and,
        and_false, false_and, or_true, true_or, or_false, false_or, not_true,
        not_false_iff, iff_self, true_iff, iff_true, false_iff, iff_false, ite_self,
        decide_eq_decide, decide_False, decide_True, Bool.not_true, Bool.not_false]
    all_goals omega
  · set_option maxRecDepth 8000 in
    simp only [
        ↓reduceIte, ↓fast_pow.pow_L_2TAG_PACKET_9_0_2_1_sem,
        ↓fast_pow.pow_L_2TAG_PACKET_7_0_2_1_sem, ↓fast_pow.pow_L_2TAG_PACKET_0_0_2_2_sem,
        ↓fast_pow.pow_L_2TAG_PACKET_0_0_2_1_sem, ↓fast_pow.pow_B1_2_1_sem,
        ↓fast_pow.pow_start_1_sem, ↓fast_pow.pow_entry_1_sem, ↓Machine.get_setx,
        ↓Machine.get_setg, ↓Machine.get_setstk, ↓Machine.get_enter, ↓Machine.get_setFlags,
        ↓Machine.trace_set, ↓Machine.get_ite, ↓Machine.trace_ite, ↓Machine.obs_eq_get,
        ↓Machine.flags_get, ↓Machine.flags_trace, ↓sem_get_1, ↓sem_get_2, ↓sem_get_3,
        ↓sem_get_4, ↓sem_trace_1, ↓sem_trace_2, ↓sem_trace_3, ↓sem_trace_4, ↓load_const,
        cc_iff, ea, and_imm, and_imm_left, ilog2_lit, or_eq_zero, or_mod32, or_lt_2p31,
        Nat.mod_mod, Nat.zero_or, Nat.or_zero, Nat.sub_zero, Nat.add_mod_right, lane_eq,
        Machine.io_eq_get, Nat.xor_self, Loc.x.injEq, Loc.g.injEq, Loc.m.injEq,
        Bool.toNat_eq_zero, Bool.toNat_eq_one, Nat.reducePow, Nat.reduceMul,
        Nat.reduceMod, Nat.reduceAdd, Nat.reduceSub, Nat.reduceDiv, Nat.reduceEqDiff,
        Nat.reduceLTLE, Nat.reduceLeDiff, Nat.reduceLT, Nat.reduceGT, Nat.reduceOr,
        Nat.reduceXor, reduceCtorEq, Bool.not_eq_true', Bool.not_eq_true,
        decide_eq_true_eq, decide_eq_false_iff_not, Bool.and_eq_true, Bool.or_eq_true,
        bne_iff_ne, beq_iff_eq, ne_eq, Bool.not_eq_false', Bool.not_eq_false, decide_not,
        not_not, Bool.decide_eq_true, Bool.false_eq_true, Bool.true_eq_false,
        not_false_eq_true, not_true_eq_false, and_true, true_and, and_false, false_and,
        or_true, true_or, or_false, false_or, not_true, not_false_iff, iff_self, true_iff,
        iff_true, false_iff, iff_false, ite_self, decide_eq_decide, decide_False,
        decide_True, Bool.not_true, Bool.not_false]
    all_goals omega
  · set_option maxRecDepth 8000 in
    simp only [
        ↓reduceIte, ↓fast_pow.pow_L_2TAG_PACKET_7_0_2_1_sem,
        ↓fast_pow.pow_L_2TAG_PACKET_0_0_2_2_sem, ↓fast_pow.pow_L_2TAG_PACKET_0_0_2_1_sem,
        ↓fast_pow.pow_B1_2_1_sem, ↓fast_pow.pow_start_1_sem, ↓fast_pow.pow_entry_1_sem,
        ↓Machine.get_setx, ↓Machine.get_setg, ↓Machine.get_setstk, ↓Machine.get_enter,
        ↓Machine.get_setFlags, ↓Machine.trace_set, ↓Machine.get_ite, ↓Machine.trace_ite,
        ↓Machine.obs_eq_get, ↓Machine.flags_get, ↓Machine.flags_trace, ↓sem_get_1,
        ↓sem_get_2, ↓sem_get_3, ↓sem_get_4, ↓sem_trace_1, ↓sem_trace_2, ↓sem_trace_3,
        ↓sem_trace_4, ↓load_const, cc_iff, ea, and_imm, and_imm_left, ilog2_lit,
        or_eq_zero, or_mod32, or_lt_2p31, Nat.mod_mod, Nat.zero_or, Nat.or_zero,
        Nat.sub_zero, Nat.add_mod_right, lane_eq, Machine.io_eq_get, Nat.xor_self,
        Loc.x.injEq, Loc.g.injEq, Loc.m.injEq, Bool.toNat_eq_zero, Bool.toNat_eq_one,
        Nat.reducePow, Nat.reduceMul, Nat.reduceMod, Nat.reduceAdd, Nat.reduceSub,
        Nat.reduceDiv, Nat.reduceEqDiff, Nat.reduceLTLE, Nat.reduceLeDiff, Nat.reduceLT,
        Nat.reduceGT, Nat.reduceOr, Nat.reduceXor, reduceCtorEq, Bool.not_eq_true',
        Bool.not_eq_true, decide_eq_true_eq, decide_eq_false_iff_not, Bool.and_eq_true,
        Bool.or_eq_true, bne_iff_ne, beq_iff_eq, ne_eq, Bool.not_eq_false',
        Bool.not_eq_false, decide_not, not_not, Bool.decide_eq_true, Bool.false_eq_true,
        Bool.true_eq_false, not_false_eq_true, not_true_eq_false, and_true, true_and,
        and_false, false_and, or_true, true_or, or_false, false_or, not_true,
        not_false_iff, iff_self, true_iff, iff_true, false_iff, iff_false, ite_self,
        decide_eq_decide, decide_False, decide_True, Bool.not_true, Bool.not_false]
    all_goals omega
  · set_option maxRecDepth 8000 in
    simp only [
        ↓reduceIte, ↓fast_pow.pow_L_2TAG_PACKET_0_0_2_2_sem,
        ↓fast_pow.pow_L_2TAG_PACKET_0_0_2_1_sem, ↓fast_pow.pow_B1_2_1_sem,
        ↓fast_pow.pow_start_1_sem, ↓fast_pow.pow_entry_1_sem, ↓Machine.get_setx,
        ↓Machine.get_setg, ↓Machine.get_setstk, ↓Machine.get_enter, ↓Machine.get_setFlags,
        ↓Machine.trace_set, ↓Machine.get_ite, ↓Machine.trace_ite, ↓Machine.obs_eq_get,
        ↓Machine.flags_get, ↓Machine.flags_trace, ↓sem_get_1, ↓sem_get_2, ↓sem_get_3,
        ↓sem_get_4, ↓sem_trace_1, ↓sem_trace_2, ↓sem_trace_3, ↓sem_trace_4, ↓load_const,
        cc_iff, ea, and_imm, and_imm_left, ilog2_lit, or_eq_zero, or_mod32, or_lt_2p31,
        Nat.mod_mod, Nat.zero_or, Nat.or_zero, Nat.sub_zero, Nat.add_mod_right, lane_eq,
        Machine.io_eq_get, Nat.xor_self, Loc.x.injEq, Loc.g.injEq, Loc.m.injEq,
        Bool.toNat_eq_zero, Bool.toNat_eq_one, Nat.reducePow, Nat.reduceMul,
        Nat.reduceMod, Nat.reduceAdd, Nat.reduceSub, Nat.reduceDiv, Nat.reduceEqDiff,
        Nat.reduceLTLE, Nat.reduceLeDiff, Nat.reduceLT, Nat.reduceGT, Nat.reduceOr,
        Nat.reduceXor, reduceCtorEq, Bool.not_eq_true', Bool.not_eq_true,
        decide_eq_true_eq, decide_eq_false_iff_not, Bool.and_eq_true, Bool.or_eq_true,
        bne_iff_ne, beq_iff_eq, ne_eq, Bool.not_eq_false', Bool.not_eq_false, decide_not,
        not_not, Bool.decide_eq_true, Bool.false_eq_true, Bool.true_eq_false,
        not_false_eq_true, not_true_eq_false, and_true, true_and, and_false, false_and,
        or_true, true_or, or_false, false_or, not_true, not_false_iff, iff_self, true_iff,
        iff_true, false_iff, iff_false, ite_self, decide_eq_decide, decide_False,
        decide_True, Bool.not_true, Bool.not_false]
    all_goals omega
  · set_option maxRecDepth 8000 in
    simp only [
        ↓reduceIte, ↓fast_pow.pow_L_2TAG_PACKET_0_0_2_1_sem, ↓fast_pow.pow_B1_2_1_sem,
        ↓fast_pow.pow_start_1_sem, ↓fast_pow.pow_entry_1_sem, ↓Machine.get_setx,
        ↓Machine.get_setg, ↓Machine.get_setstk, ↓Machine.get_enter, ↓Machine.get_setFlags,
        ↓Machine.trace_set, ↓Machine.get_ite, ↓Machine.trace_ite, ↓Machine.obs_eq_get,
        ↓Machine.flags_get, ↓Machine.flags_trace, ↓sem_get_1, ↓sem_get_2, ↓sem_get_3,
        ↓sem_get_4, ↓sem_trace_1, ↓sem_trace_2, ↓sem_trace_3, ↓sem_trace_4, ↓load_const,
        cc_iff, ea, and_imm, and_imm_left, ilog2_lit, or_eq_zero, or_mod32, or_lt_2p31,
        Nat.mod_mod, Nat.zero_or, Nat.or_zero, Nat.sub_zero, Nat.add_mod_right, lane_eq,
        Machine.io_eq_get, Nat.xor_self, Loc.x.injEq, Loc.g.injEq, Loc.m.injEq,
        Bool.toNat_eq_zero, Bool.toNat_eq_one, Nat.reducePow, Nat.reduceMul,
        Nat.reduceMod, Nat.reduceAdd, Nat.reduceSub, Nat.reduceDiv, Nat.reduceEqDiff,
        Nat.reduceLTLE, Nat.reduceLeDiff, Nat.reduceLT, Nat.reduceGT, Nat.reduceOr,
        Nat.reduceXor, reduceCtorEq, Bool.not_eq_true', Bool.not_eq_true,
        decide_eq_true_eq, decide_eq_false_iff_not, Bool.and_eq_true, Bool.or_eq_true,
        bne_iff_ne, beq_iff_eq, ne_eq, Bool.not_eq_false', Bool.not_eq_false, decide_not,
        not_not, Bool.decide_eq_true, Bool.false_eq_true, Bool.true_eq_false,
        not_false_eq_true, not_true_eq_false, and_true, true_and, and_false, false_and,
        or_true, true_or, or_false, false_or, not_true, not_false_iff, iff_self, true_iff,
        iff_true, false_iff, iff_false, ite_self, decide_eq_decide, decide_False,
        decide_True, Bool.not_true, Bool.not_false]
    all_goals omega
  · set_option maxRecDepth 8000 in
    simp only [
        ↓reduceIte, ↓fast_pow.pow_B1_2_1_sem, ↓fast_pow.pow_start_1_sem,
        ↓fast_pow.pow_entry_1_sem, ↓Machine.get_setx, ↓Machine.get_setg,
        ↓Machine.get_setstk, ↓Machine.get_enter, ↓Machine.get_setFlags,
        ↓Machine.trace_set, ↓Machine.get_ite, ↓Machine.trace_ite, ↓Machine.obs_eq_get,
        ↓Machine.flags_get, ↓Machine.flags_trace, ↓sem_get_1, ↓sem_get_2, ↓sem_get_3,
        ↓sem_get_4, ↓sem_trace_1, ↓sem_trace_2, ↓sem_trace_3, ↓sem_trace_4, ↓load_const,
        cc_iff, ea, and_imm, and_imm_left, ilog2_lit, or_eq_zero, or_mod32, or_lt_2p31,
        Nat.mod_mod, Nat.zero_or, Nat.or_zero, Nat.sub_zero, Nat.add_mod_right, lane_eq,
        Machine.io_eq_get, Nat.xor_self, Loc.x.injEq, Loc.g.injEq, Loc.m.injEq,
        Bool.toNat_eq_zero, Bool.toNat_eq_one, Nat.reducePow, Nat.reduceMul,
        Nat.reduceMod, Nat.reduceAdd, Nat.reduceSub, Nat.reduceDiv, Nat.reduceEqDiff,
        Nat.reduceLTLE, Nat.reduceLeDiff, Nat.reduceLT, Nat.reduceGT, Nat.reduceOr,
        Nat.reduceXor, reduceCtorEq, Bool.not_eq_true', Bool.not_eq_true,
        decide_eq_true_eq, decide_eq_false_iff_not, Bool.and_eq_true, Bool.or_eq_true,
        bne_iff_ne, beq_iff_eq, ne_eq, Bool.not_eq_false', Bool.not_eq_false, decide_not,
        not_not, Bool.decide_eq_true, Bool.false_eq_true, Bool.true_eq_false,
        not_false_eq_true, not_true_eq_false, and_true, true_and, and_false, false_and,
        or_true, true_or, or_false, false_or, not_true, not_false_iff, iff_self, true_iff,
        iff_true, false_iff, iff_false, ite_self, decide_eq_decide, decide_False,
        decide_True, Bool.not_true, Bool.not_false]
    all_goals omega

theorem fast_pow_zero_pzero_run (cpu : Cpu) (s : Machine)
    (hx : s.arg0 = 0)
    (hy : s.arg1 = 0 ∨ s.arg1 = 0x8000000000000000) :
    (fast_pow cpu s).result = 0x3FF0000000000000 := by
  simp only [Machine.io_eq_get, Nat.reducePow] at hx hy
  rw [
      fast_pow, fast_pow.pow_entry_eq, fast_pow.pow_start_eq, fast_pow.pow_B1_2_eq, if_pos,
      fast_pow.pow_L_2TAG_PACKET_0_0_2_eq, if_neg, if_neg,
      fast_pow.pow_L_2TAG_PACKET_8_0_2_eq, if_pos, fast_pow.pow_L_2TAG_PACKET_9_0_2_eq,
      if_pos, fast_pow.pow_L_2TAG_PACKET_40_0_2_eq, if_pos,
      fast_pow.pow_L_2TAG_PACKET_39_0_2_eq, fast_pow.pow_L_2TAG_PACKET_17_0_2_eq,
      fast_pow.pow_B1_3_eq, fast_pow.pow_L_2TAG_PACKET_56_0_2_eq, fast_pow.pow_B1_5_eq]
  · set_option maxRecDepth 8000 in
    simp only [
        ↓reduceIte, ↓fast_pow.pow_B1_5_1_sem, ↓fast_pow.pow_L_2TAG_PACKET_56_0_2_1_sem,
        ↓fast_pow.pow_B1_3_1_sem, ↓fast_pow.pow_L_2TAG_PACKET_17_0_2_1_sem,
        ↓fast_pow.pow_L_2TAG_PACKET_39_0_2_1_sem,
        ↓fast_pow.pow_L_2TAG_PACKET_40_0_2_1_sem, ↓fast_pow.pow_L_2TAG_PACKET_9_0_2_1_sem,
        ↓fast_pow.pow_L_2TAG_PACKET_8_0_2_1_sem, ↓fast_pow.pow_L_2TAG_PACKET_0_0_2_3_sem,
        ↓fast_pow.pow_L_2TAG_PACKET_0_0_2_2_sem, ↓fast_pow.pow_L_2TAG_PACKET_0_0_2_1_sem,
        ↓fast_pow.pow_B1_2_1_sem, ↓fast_pow.pow_start_1_sem, ↓fast_pow.pow_entry_1_sem,
        ↓Machine.get_setx, ↓Machine.get_setg, ↓Machine.get_setstk, ↓Machine.get_enter,
        ↓Machine.get_setFlags, ↓Machine.trace_set, ↓Machine.get_ite, ↓Machine.trace_ite,
        ↓Machine.obs_eq_get, ↓Machine.flags_get, ↓Machine.flags_trace, ↓sem_get_1,
        ↓sem_get_2, ↓sem_get_3, ↓sem_get_4, ↓sem_trace_1, ↓sem_trace_2, ↓sem_trace_3,
        ↓sem_trace_4, ↓load_const, cc_iff, ea, and_imm, and_imm_left, ilog2_lit,
        or_eq_zero, or_mod32, or_lt_2p31, Nat.mod_mod, Nat.zero_or, Nat.or_zero,
        Nat.sub_zero, Nat.add_mod_right, lane_eq, Machine.io_eq_get, Nat.xor_self,
        Loc.x.injEq, Loc.g.injEq, Loc.m.injEq, Bool.toNat_eq_zero, Bool.toNat_eq_one,
        Nat.reducePow, Nat.reduceMul, Nat.reduceMod, Nat.reduceAdd, Nat.reduceSub,
        Nat.reduceDiv, Nat.reduceEqDiff, Nat.reduceLTLE, Nat.reduceLeDiff, Nat.reduceLT,
        Nat.reduceGT, Nat.reduceOr, Nat.reduceXor, reduceCtorEq, Bool.not_eq_true',
        Bool.not_eq_true, decide_eq_true_eq, decide_eq_false_iff_not, Bool.and_eq_true,
        Bool.or_eq_true, bne_iff_ne, beq_iff_eq, ne_eq, Bool.not_eq_false',
        Bool.not_eq_false, decide_not, not_not, Bool.decide_eq_true, Bool.false_eq_true,
        Bool.true_eq_false, not_false_eq_true, not_true_eq_false, and_true, true_and,
        and_false, false_and, or_true, true_or, or_false, false_or, not_true,
        not_false_iff, iff_self, true_iff, iff_true, false_iff, iff_false, ite_self,
        decide_eq_decide, decide_False, decide_True, Bool.not_true, Bool.not_false]
  · set_option maxRecDepth 8000 in
    simp only [
        ↓reduceIte, ↓fast_pow.pow_L_2TAG_PACKET_40_0_2_1_sem,
        ↓fast_pow.pow_L_2TAG_PACKET_9_0_2_1_sem, ↓fast_pow.pow_L_2TAG_PACKET_8_0_2_1_sem,
        ↓fast_pow.pow_L_2TAG_PACKET_0_0_2_3_sem, ↓fast_pow.pow_L_2TAG_PACKET_0_0_2_2_sem,
        ↓fast_pow.pow_L_2TAG_PACKET_0_0_2_1_sem, ↓fast_pow.pow_B1_2_1_sem,
        ↓fast_pow.pow_start_1_sem, ↓fast_pow.pow_entry_1_sem, ↓Machine.get_setx,
        ↓Machine.get_setg, ↓Machine.get_setstk, ↓Machine.get_enter, ↓Machine.get_setFlags,
        ↓Machine.trace_set, ↓Machine.get_ite, ↓Machine.trace_ite, ↓Machine.obs_eq_get,
        ↓Machine.flags_get, ↓Machine.flags_trace, ↓sem_get_1, ↓sem_get_2, ↓sem_get_3,
        ↓sem_get_4, ↓sem_trace_1, ↓sem_trace_2, ↓sem_trace_3, ↓sem_trace_4, ↓load_const,
        cc_iff, ea, and_imm, and_imm_left, ilog2_lit, or_eq_zero, or_mod32, or_lt_2p31,
        Nat.mod_mod, Nat.zero_or, Nat.or_zero, Nat.sub_zero, Nat.add_mod_right, lane_eq,
        Machine.io_eq_get, Nat.xor_self, Loc.x.injEq, Loc.g.injEq, Loc.m.injEq,
        Bool.toNat_eq_zero, Bool.toNat_eq_one, Nat.reducePow, Nat.reduceMul,
        Nat.reduceMod, Nat.reduceAdd, Nat.reduceSub, Nat.reduceDiv, Nat.reduceEqDiff,
        Nat.reduceLTLE, Nat.reduceLeDiff, Nat.reduceLT, Nat.reduceGT, Nat.reduceOr,
        Nat.reduceXor, reduceCtorEq, Bool.not_eq_true', Bool.not_eq_true,
        decide_eq_true_eq, decide_eq_false_iff_not, Bool.and_eq_true, Bool.or_eq_true,
        bne_iff_ne, beq_iff_eq, ne_eq, Bool.not_eq_false', Bool.not_eq_false, decide_not,
        not_not, Bool.decide_eq_true, Bool.false_eq_true, Bool.true_eq_false,
        not_false_eq_true, not_true_eq_false, and_true, true_and, and_false, false_and,
        or_true, true_or, or_false, false_or, not_true, not_false_iff, iff_self, true_iff,
        iff_true, false_iff, iff_false, ite_self, decide_eq_decide, decide_False,
        decide_True, Bool.not_true, Bool.not_false]
    all_goals omega
  · set_option maxRecDepth 8000 in
    simp only [
        ↓reduceIte, ↓fast_pow.pow_L_2TAG_PACKET_9_0_2_1_sem,
        ↓fast_pow.pow_L_2TAG_PACKET_8_0_2_1_sem, ↓fast_pow.pow_L_2TAG_PACKET_0_0_2_3_sem,
        ↓fast_pow.pow_L_2TAG_PACKET_0_0_2_2_sem, ↓fast_pow.pow_L_2TAG_PACKET_0_0_2_1_sem,
        ↓fast_pow.pow_B1_2_1_sem, ↓fast_pow.pow_start_1_sem, ↓fast_pow.pow_entry_1_sem,
        ↓Machine.get_setx, ↓Machine.get_setg, ↓Machine.get_setstk, ↓Machine.get_enter,
        ↓Machine.get_setFlags, ↓Machine.trace_set, ↓Machine.get_ite, ↓Machine.trace_ite,
        ↓Machine.obs_eq_get, ↓Machine.flags_get, ↓Machine.flags_trace, ↓sem_get_1,
        ↓sem_get_2, ↓sem_get_3, ↓sem_get_4, ↓sem_trace_1, ↓sem_trace_2, ↓sem_trace_3,
        ↓sem_trace_4, ↓load_const, cc_iff, ea, and_imm, and_imm_left, ilog2_lit,
        or_eq_zero, or_mod32, or_lt_2p31, Nat.mod_mod, Nat.zero_or, Nat.or_zero,
        Nat.sub_zero, Nat.add_mod_right, lane_eq, Machine.io_eq_get, Nat.xor_self,
        Loc.x.injEq, Loc.g.injEq, Loc.m.injEq, Bool.toNat_eq_zero, Bool.toNat_eq_one,
        Nat.reducePow, Nat.reduceMul, Nat.reduceMod, Nat.reduceAdd, Nat.reduceSub,
        Nat.reduceDiv, Nat.reduceEqDiff, Nat.reduceLTLE, Nat.reduceLeDiff, Nat.reduceLT,
        Nat.reduceGT, Nat.reduceOr, Nat.reduceXor, reduceCtorEq, Bool.not_eq_true',
        Bool.not_eq_true, decide_eq_true_eq, decide_eq_false_iff_not, Bool.and_eq_true,
        Bool.or_eq_true, bne_iff_ne, beq_iff_eq, ne_eq, Bool.not_eq_false',
        Bool.not_eq_false, decide_not, not_not, Bool.decide_eq_true, Bool.false_eq_true,
        Bool.true_eq_false, not_false_eq_true, not_true_eq_false, and_true, true_and,
        and_false, false_and, or_true, true_or, or_false, false_or, not_true,
        not_false_iff, iff_self, true_iff, iff_true, false_iff, iff_false, ite_self,
        decide_eq_decide, decide_False, decide_True, Bool.not_true, Bool.not_false]
    all_goals omega
  · set_option maxRecDepth 8000 in
    simp only [
        ↓reduceIte, ↓fast_pow.pow_L_2TAG_PACKET_8_0_2_1_sem,
        ↓fast_pow.pow_L_2TAG_PACKET_0_0_2_3_sem, ↓fast_pow.pow_L_2TAG_PACKET_0_0_2_2_sem,
        ↓fast_pow.pow_L_2TAG_PACKET_0_0_2_1_sem, ↓fast_pow.pow_B1_2_1_sem,
        ↓fast_pow.pow_start_1_sem, ↓fast_pow.pow_entry_1_sem, ↓Machine.get_setx,
        ↓Machine.get_setg, ↓Machine.get_setstk, ↓Machine.get_enter, ↓Machine.get_setFlags,
        ↓Machine.trace_set, ↓Machine.get_ite, ↓Machine.trace_ite, ↓Machine.obs_eq_get,
        ↓Machine.flags_get, ↓Machine.flags_trace, ↓sem_get_1, ↓sem_get_2, ↓sem_get_3,
        ↓sem_get_4, ↓sem_trace_1, ↓sem_trace_2, ↓sem_trace_3, ↓sem_trace_4, ↓load_const,
        cc_iff, ea, and_imm, and_imm_left, ilog2_lit, or_eq_zero, or_mod32, or_lt_2p31,
        Nat.mod_mod, Nat.zero_or, Nat.or_zero, Nat.sub_zero, Nat.add_mod_right, lane_eq,
        Machine.io_eq_get, Nat.xor_self, Loc.x.injEq, Loc.g.injEq, Loc.m.injEq,
        Bool.toNat_eq_zero, Bool.toNat_eq_one, Nat.reducePow, Nat.reduceMul,
        Nat.reduceMod, Nat.reduceAdd, Nat.reduceSub, Nat.reduceDiv, Nat.reduceEqDiff,
        Nat.reduceLTLE, Nat.reduceLeDiff, Nat.reduceLT, Nat.reduceGT, Nat.reduceOr,
        Nat.reduceXor, reduceCtorEq, Bool.not_eq_true', Bool.not_eq_true,
        decide_eq_true_eq, decide_eq_false_iff_not, Bool.and_eq_true, Bool.or_eq_true,
        bne_iff_ne, beq_iff_eq, ne_eq, Bool.not_eq_false', Bool.not_eq_false, decide_not,
        not_not, Bool.decide_eq_true, Bool.false_eq_true, Bool.true_eq_false,
        not_false_eq_true, not_true_eq_false, and_true, true_and, and_false, false_and,
        or_true, true_or, or_false, false_or, not_true, not_false_iff, iff_self, true_iff,
        iff_true, false_iff, iff_false, ite_self, decide_eq_decide, decide_False,
        decide_True, Bool.not_true, Bool.not_false]
    all_goals omega
  · set_option maxRecDepth 8000 in
    simp only [
        ↓reduceIte, ↓fast_pow.pow_L_2TAG_PACKET_0_0_2_2_sem,
        ↓fast_pow.pow_L_2TAG_PACKET_0_0_2_1_sem, ↓fast_pow.pow_B1_2_1_sem,
        ↓fast_pow.pow_start_1_sem, ↓fast_pow.pow_entry_1_sem, ↓Machine.get_setx,
        ↓Machine.get_setg, ↓Machine.get_setstk, ↓Machine.get_enter, ↓Machine.get_setFlags,
        ↓Machine.trace_set, ↓Machine.get_ite, ↓Machine.trace_ite, ↓Machine.obs_eq_get,
        ↓Machine.flags_get, ↓Machine.flags_trace, ↓sem_get_1, ↓sem_get_2, ↓sem_get_3,
        ↓sem_get_4, ↓sem_trace_1, ↓sem_trace_2, ↓sem_trace_3, ↓sem_trace_4, ↓load_const,
        cc_iff, ea, and_imm, and_imm_left, ilog2_lit, or_eq_zero, or_mod32, or_lt_2p31,
        Nat.mod_mod, Nat.zero_or, Nat.or_zero, Nat.sub_zero, Nat.add_mod_right, lane_eq,
        Machine.io_eq_get, Nat.xor_self, Loc.x.injEq, Loc.g.injEq, Loc.m.injEq,
        Bool.toNat_eq_zero, Bool.toNat_eq_one, Nat.reducePow, Nat.reduceMul,
        Nat.reduceMod, Nat.reduceAdd, Nat.reduceSub, Nat.reduceDiv, Nat.reduceEqDiff,
        Nat.reduceLTLE, Nat.reduceLeDiff, Nat.reduceLT, Nat.reduceGT, Nat.reduceOr,
        Nat.reduceXor, reduceCtorEq, Bool.not_eq_true', Bool.not_eq_true,
        decide_eq_true_eq, decide_eq_false_iff_not, Bool.and_eq_true, Bool.or_eq_true,
        bne_iff_ne, beq_iff_eq, ne_eq, Bool.not_eq_false', Bool.not_eq_false, decide_not,
        not_not, Bool.decide_eq_true, Bool.false_eq_true, Bool.true_eq_false,
        not_false_eq_true, not_true_eq_false, and_true, true_and, and_false, false_and,
        or_true, true_or, or_false, false_or, not_true, not_false_iff, iff_self, true_iff,
        iff_true, false_iff, iff_false, ite_self, decide_eq_decide, decide_False,
        decide_True, Bool.not_true, Bool.not_false]
    all_goals omega
  · set_option maxRecDepth 8000 in
    simp only [
        ↓reduceIte, ↓fast_pow.pow_L_2TAG_PACKET_0_0_2_1_sem, ↓fast_pow.pow_B1_2_1_sem,
        ↓fast_pow.pow_start_1_sem, ↓fast_pow.pow_entry_1_sem, ↓Machine.get_setx,
        ↓Machine.get_setg, ↓Machine.get_setstk, ↓Machine.get_enter, ↓Machine.get_setFlags,
        ↓Machine.trace_set, ↓Machine.get_ite, ↓Machine.trace_ite, ↓Machine.obs_eq_get,
        ↓Machine.flags_get, ↓Machine.flags_trace, ↓sem_get_1, ↓sem_get_2, ↓sem_get_3,
        ↓sem_get_4, ↓sem_trace_1, ↓sem_trace_2, ↓sem_trace_3, ↓sem_trace_4, ↓load_const,
        cc_iff, ea, and_imm, and_imm_left, ilog2_lit, or_eq_zero, or_mod32, or_lt_2p31,
        Nat.mod_mod, Nat.zero_or, Nat.or_zero, Nat.sub_zero, Nat.add_mod_right, lane_eq,
        Machine.io_eq_get, Nat.xor_self, Loc.x.injEq, Loc.g.injEq, Loc.m.injEq,
        Bool.toNat_eq_zero, Bool.toNat_eq_one, Nat.reducePow, Nat.reduceMul,
        Nat.reduceMod, Nat.reduceAdd, Nat.reduceSub, Nat.reduceDiv, Nat.reduceEqDiff,
        Nat.reduceLTLE, Nat.reduceLeDiff, Nat.reduceLT, Nat.reduceGT, Nat.reduceOr,
        Nat.reduceXor, reduceCtorEq, Bool.not_eq_true', Bool.not_eq_true,
        decide_eq_true_eq, decide_eq_false_iff_not, Bool.and_eq_true, Bool.or_eq_true,
        bne_iff_ne, beq_iff_eq, ne_eq, Bool.not_eq_false', Bool.not_eq_false, decide_not,
        not_not, Bool.decide_eq_true, Bool.false_eq_true, Bool.true_eq_false,
        not_false_eq_true, not_true_eq_false, and_true, true_and, and_false, false_and,
        or_true, true_or, or_false, false_or, not_true, not_false_iff, iff_self, true_iff,
        iff_true, false_iff, iff_false, ite_self, decide_eq_decide, decide_False,
        decide_True, Bool.not_true, Bool.not_false]
    all_goals omega
  · set_option maxRecDepth 8000 in
    simp only [
        ↓reduceIte, ↓fast_pow.pow_B1_2_1_sem, ↓fast_pow.pow_start_1_sem,
        ↓fast_pow.pow_entry_1_sem, ↓Machine.get_setx, ↓Machine.get_setg,
        ↓Machine.get_setstk, ↓Machine.get_enter, ↓Machine.get_setFlags,
        ↓Machine.trace_set, ↓Machine.get_ite, ↓Machine.trace_ite, ↓Machine.obs_eq_get,
        ↓Machine.flags_get, ↓Machine.flags_trace, ↓sem_get_1, ↓sem_get_2, ↓sem_get_3,
        ↓sem_get_4, ↓sem_trace_1, ↓sem_trace_2, ↓sem_trace_3, ↓sem_trace_4, ↓load_const,
        cc_iff, ea, and_imm, and_imm_left, ilog2_lit, or_eq_zero, or_mod32, or_lt_2p31,
        Nat.mod_mod, Nat.zero_or, Nat.or_zero, Nat.sub_zero, Nat.add_mod_right, lane_eq,
        Machine.io_eq_get, Nat.xor_self, Loc.x.injEq, Loc.g.injEq, Loc.m.injEq,
        Bool.toNat_eq_zero, Bool.toNat_eq_one, Nat.reducePow, Nat.reduceMul,
        Nat.reduceMod, Nat.reduceAdd, Nat.reduceSub, Nat.reduceDiv, Nat.reduceEqDiff,
        Nat.reduceLTLE, Nat.reduceLeDiff, Nat.reduceLT, Nat.reduceGT, Nat.reduceOr,
        Nat.reduceXor, reduceCtorEq, Bool.not_eq_true', Bool.not_eq_true,
        decide_eq_true_eq, decide_eq_false_iff_not, Bool.and_eq_true, Bool.or_eq_true,
        bne_iff_ne, beq_iff_eq, ne_eq, Bool.not_eq_false', Bool.not_eq_false, decide_not,
        not_not, Bool.decide_eq_true, Bool.false_eq_true, Bool.true_eq_false,
        not_false_eq_true, not_true_eq_false, and_true, true_and, and_false, false_and,
        or_true, true_or, or_false, false_or, not_true, not_false_iff, iff_self, true_iff,
        iff_true, false_iff, iff_false, ite_self, decide_eq_decide, decide_False,
        decide_True, Bool.not_true, Bool.not_false]
    all_goals omega

set_option maxHeartbeats 1000000 in
theorem fast_pow_zero_normal_run (cpu : Cpu) (s : Machine)
    (h1 : 16 ≤ s.arg0 / 2 ^ 48) (h2 : s.arg0 / 2 ^ 48 < 32752)
    (h3 : s.arg0 / 2 ^ 48 ≠ 16367) (h4 : s.arg0 / 2 ^ 48 ≠ 16368)
    (hy : s.arg1 = 0 ∨ s.arg1 = 0x8000000000000000) :
    (fast_pow cpu s).result = 0x3FF0000000000000 := by
  simp only [Machine.io_eq_get, Nat.reducePow] at h1 h2 h3 h4 hy
  have hE := pow_L4_1_eax cpu (fast_pow.L_2TAG_PACKET_3_0_2_1 cpu (fast_pow.L_2TAG_PACKET_1_0_2_2 cpu (fast_pow.L_2TAG_PACKET_1_0_2_1 cpu (fast_pow.B1_2_2 cpu (fast_pow.B1_2_1 cpu (fast_pow.start_1 cpu (fast_pow.entry_1 cpu s)))))))
  have hF := pow_L4_1_flags cpu (fast_pow.L_2TAG_PACKET_3_0_2_1 cpu (fast_pow.L_2TAG_PACKET_1_0_2_2 cpu (fast_pow.L_2TAG_PACKET_1_0_2_1 cpu (fast_pow.B1_2_2 cpu (fast_pow.B1_2_1 cpu (fast_pow.start_1 cpu (fast_pow.entry_1 cpu s)))))))
  set_option maxRecDepth 8000 in
  simp only [
      ↓reduceIte, ↓fast_pow.pow_L_2TAG_PACKET_3_0_2_1_sem,
      ↓fast_pow.pow_L_2TAG_PACKET_1_0_2_2_sem, ↓fast_pow.pow_L_2TAG_PACKET_1_0_2_1_sem,
      ↓fast_pow.pow_B1_2_2_sem, ↓fast_pow.pow_B1_2_1_sem, ↓fast_pow.pow_start_1_sem,
      ↓fast_pow.pow_entry_1_sem, ↓Machine.get_setx, ↓Machine.get_setg, ↓Machine.get_setstk,
      ↓Machine.get_enter, ↓Machine.get_setFlags, ↓Machine.trace_set, ↓Machine.get_ite,
      ↓Machine.trace_ite, ↓Machine.obs_eq_get, ↓Machine.flags_get, ↓Machine.flags_trace,
      ↓sem_get_1, ↓sem_get_2, ↓sem_get_3, ↓sem_get_4, ↓sem_trace_1, ↓sem_trace_2,
      ↓sem_trace_3, ↓sem_trace_4, ↓load_const, cc_iff, ea, and_imm, and_imm_left, ilog2_lit,
      or_eq_zero, or_mod32, or_lt_2p31, Nat.mod_mod, Nat.zero_or, Nat.or_zero, Nat.sub_zero,
      Nat.add_mod_right, lane_eq, Machine.io_eq_get, Nat.xor_self, Loc.x.injEq, Loc.g.injEq,
      Loc.m.injEq, Bool.toNat_eq_zero, Bool.toNat_eq_one, Nat.reducePow, Nat.reduceMul,
      Nat.reduceMod, Nat.reduceAdd, Nat.reduceSub, Nat.reduceDiv, Nat.reduceEqDiff,
      Nat.reduceLTLE, Nat.reduceLeDiff, Nat.reduceLT, Nat.reduceGT, Nat.reduceOr,
      Nat.reduceXor, reduceCtorEq, Bool.not_eq_true', Bool.not_eq_true, decide_eq_true_eq,
      decide_eq_false_iff_not, Bool.and_eq_true, Bool.or_eq_true, bne_iff_ne, beq_iff_eq,
      ne_eq, Bool.not_eq_false', Bool.not_eq_false, decide_not, not_not,
      Bool.decide_eq_true, Bool.false_eq_true, Bool.true_eq_false, not_false_eq_true,
      not_true_eq_false, and_true, true_and, and_false, false_and, or_true, true_or,
      or_false, false_or, not_true, not_false_iff, iff_self, true_iff, iff_true, false_iff,
      iff_false, ite_self, decide_eq_decide, decide_False, decide_True, Bool.not_true,
      Bool.not_false] at hE
  rw [
      fast_pow, fast_pow.pow_entry_eq, fast_pow.pow_start_eq, fast_pow.pow_B1_2_eq, if_neg,
      fast_pow.pow_L_2TAG_PACKET_1_0_2_eq, if_neg, fast_pow.pow_L_2TAG_PACKET_3_0_2_eq,
      fast_pow.pow_L_2TAG_PACKET_4_0_2_eq, if_pos, fast_pow.pow_L_2TAG_PACKET_5_0_2_eq,
      if_pos, fast_pow.pow_L_2TAG_PACKET_11_0_2_eq, if_pos,
      fast_pow.pow_L_2TAG_PACKET_38_0_2_eq, fast_pow.pow_L_2TAG_PACKET_37_0_2_eq,
      fast_pow.pow_B1_5_eq]
  · set_option maxRecDepth 8000 in
    simp only [
        ↓reduceIte, hF, ↓fast_pow.pow_B1_5_1_sem,
        ↓fast_pow.pow_L_2TAG_PACKET_37_0_2_1_sem,
        ↓fast_pow.pow_L_2TAG_PACKET_38_0_2_1_sem,
        ↓fast_pow.pow_L_2TAG_PACKET_11_0_2_1_sem, ↓fast_pow.pow_L_2TAG_PACKET_5_0_2_1_sem,
        ↓fast_pow.pow_L_2TAG_PACKET_3_0_2_1_sem, ↓fast_pow.pow_L_2TAG_PACKET_1_0_2_2_sem,
        ↓fast_pow.pow_L_2TAG_PACKET_1_0_2_1_sem, ↓fast_pow.pow_B1_2_2_sem,
        ↓fast_pow.pow_B1_2_1_sem, ↓fast_pow.pow_start_1_sem, ↓fast_pow.pow_entry_1_sem,
        ↓Machine.get_setx, ↓Machine.get_setg, ↓Machine.get_setstk, ↓Machine.get_enter,
        ↓Machine.get_setFlags, ↓Machine.trace_set, ↓Machine.get_ite, ↓Machine.trace_ite,
        ↓Machine.obs_eq_get, ↓Machine.flags_get, ↓Machine.flags_trace, ↓sem_get_1,
        ↓sem_get_2, ↓sem_get_3, ↓sem_get_4, ↓sem_trace_1, ↓sem_trace_2, ↓sem_trace_3,
        ↓sem_trace_4, ↓load_const, cc_iff, ea, and_imm, and_imm_left, ilog2_lit,
        or_eq_zero, or_mod32, or_lt_2p31, Nat.mod_mod, Nat.zero_or, Nat.or_zero,
        Nat.sub_zero, Nat.add_mod_right, lane_eq, Machine.io_eq_get, Nat.xor_self,
        Loc.x.injEq, Loc.g.injEq, Loc.m.injEq, Bool.toNat_eq_zero, Bool.toNat_eq_one,
        Nat.reducePow, Nat.reduceMul, Nat.reduceMod, Nat.reduceAdd, Nat.reduceSub,
        Nat.reduceDiv, Nat.reduceEqDiff, Nat.reduceLTLE, Nat.reduceLeDiff, Nat.reduceLT,
        Nat.reduceGT, Nat.reduceOr, Nat.reduceXor, reduceCtorEq, Bool.not_eq_true',
        Bool.not_eq_true, decide_eq_true_eq, decide_eq_false_iff_not, Bool.and_eq_true,
        Bool.or_eq_true, bne_iff_ne, beq_iff_eq, ne_eq, Bool.not_eq_false',
        Bool.not_eq_false, decide_not, not_not, Bool.decide_eq_true, Bool.false_eq_true,
        Bool.true_eq_false, not_false_eq_true, not_true_eq_false, and_true, true_and,
        and_false, false_and, or_true, true_or, or_false, false_or, not_true,
        not_false_iff, iff_self, true_iff, iff_true, false_iff, iff_false, ite_self,
        decide_eq_decide, decide_False, decide_True, Bool.not_true, Bool.not_false]
  · set_option maxRecDepth 8000 in
    simp only [
        ↓reduceIte, hF, ↓fast_pow.pow_L_2TAG_PACKET_11_0_2_1_sem,
        ↓fast_pow.pow_L_2TAG_PACKET_5_0_2_1_sem, ↓fast_pow.pow_L_2TAG_PACKET_3_0_2_1_sem,
        ↓fast_pow.pow_L_2TAG_PACKET_1_0_2_2_sem, ↓fast_pow.pow_L_2TAG_PACKET_1_0_2_1_sem,
        ↓fast_pow.pow_B1_2_2_sem, ↓fast_pow.pow_B1_2_1_sem, ↓fast_pow.pow_start_1_sem,
        ↓fast_pow.pow_entry_1_sem, ↓Machine.get_setx, ↓Machine.get_setg,
        ↓Machine.get_setstk, ↓Machine.get_enter, ↓Machine.get_setFlags,
        ↓Machine.trace_set, ↓Machine.get_ite, ↓Machine.trace_ite, ↓Machine.obs_eq_get,
        ↓Machine.flags_get, ↓Machine.flags_trace, ↓sem_get_1, ↓sem_get_2, ↓sem_get_3,
        ↓sem_get_4, ↓sem_trace_1, ↓sem_trace_2, ↓sem_trace_3, ↓sem_trace_4, ↓load_const,
        cc_iff, ea, and_imm, and_imm_left, ilog2_lit, or_eq_zero, or_mod32, or_lt_2p31,
        Nat.mod_mod, Nat.zero_or, Nat.or_zero, Nat.sub_zero, Nat.add_mod_right, lane_eq,
        Machine.io_eq_get, Nat.xor_self, Loc.x.injEq, Loc.g.injEq, Loc.m.injEq,
        Bool.toNat_eq_zero, Bool.toNat_eq_one, Nat.reducePow, Nat.reduceMul,
        Nat.reduceMod, Nat.reduceAdd, Nat.reduceSub, Nat.reduceDiv, Nat.reduceEqDiff,
        Nat.reduceLTLE, Nat.reduceLeDiff, Nat.reduceLT, Nat.reduceGT, Nat.reduceOr,
        Nat.reduceXor, reduceCtorEq, Bool.not_eq_true', Bool.not_eq_true,
        decide_eq_true_eq, decide_eq_false_iff_not, Bool.and_eq_true, Bool.or_eq_true,
        bne_iff_ne, beq_iff_eq, ne_eq, Bool.not_eq_false', Bool.not_eq_false, decide_not,
        not_not, Bool.decide_eq_true, Bool.false_eq_true, Bool.true_eq_false,
        not_false_eq_true, not_true_eq_false, and_true, true_and, and_false, false_and,
        or_true, true_or, or_false, false_or, not_true, not_false_iff, iff_self, true_iff,
        iff_true, false_iff, iff_false, ite_self, decide_eq_decide, decide_False,
        decide_True, Bool.not_true, Bool.not_false]
    all_goals omega
  · set_option maxRecDepth 8000 in
    simp only [
        ↓reduceIte, hF, ↓fast_pow.pow_L_2TAG_PACKET_5_0_2_1_sem,
        ↓fast_pow.pow_L_2TAG_PACKET_3_0_2_1_sem, ↓fast_pow.pow_L_2TAG_PACKET_1_0_2_2_sem,
        ↓fast_pow.pow_L_2TAG_PACKET_1_0_2_1_sem, ↓fast_pow.pow_B1_2_2_sem,
        ↓fast_pow.pow_B1_2_1_sem, ↓fast_pow.pow_start_1_sem, ↓fast_pow.pow_entry_1_sem,
        ↓Machine.get_setx, ↓Machine.get_setg, ↓Machine.get_setstk, ↓Machine.get_enter,
        ↓Machine.get_setFlags, ↓Machine.trace_set, ↓Machine.get_ite, ↓Machine.trace_ite,
        ↓Machine.obs_eq_get, ↓Machine.flags_get, ↓Machine.flags_trace, ↓sem_get_1,
        ↓sem_get_2, ↓sem_get_3, ↓sem_get_4, ↓sem_trace_1, ↓sem_trace_2, ↓sem_trace_3,
        ↓sem_trace_4, ↓load_const, cc_iff, ea, and_imm, and_imm_left, ilog2_lit,
        or_eq_zero, or_mod32, or_lt_2p31, Nat.mod_mod, Nat.zero_or, Nat.or_zero,
        Nat.sub_zero, Nat.add_mod_right, lane_eq, Machine.io_eq_get, Nat.xor_self,
        Loc.x.injEq, Loc.g.injEq, Loc.m.injEq, Bool.toNat_eq_zero, Bool.toNat_eq_one,
        Nat.reducePow, Nat.reduceMul, Nat.reduceMod, Nat.reduceAdd, Nat.reduceSub,
        Nat.reduceDiv, Nat.reduceEqDiff, Nat.reduceLTLE, Nat.reduceLeDiff, Nat.reduceLT,
        Nat.reduceGT, Nat.reduceOr, Nat.reduceXor, reduceCtorEq, Bool.not_eq_true',
        Bool.not_eq_true, decide_eq_true_eq, decide_eq_false_iff_not, Bool.and_eq_true,
        Bool.or_eq_true, bne_iff_ne, beq_iff_eq, ne_eq, Bool.not_eq_false',
        Bool.not_eq_false, decide_not, not_not, Bool.decide_eq_true, Bool.false_eq_true,
        Bool.true_eq_false, not_false_eq_true, not_true_eq_false, and_true, true_and,
        and_false, false_and, or_true, true_or, or_false, false_or, not_true,
        not_false_iff, iff_self, true_iff, iff_true, false_iff, iff_false, ite_self,
        decide_eq_decide, decide_False, decide_True, Bool.not_true, Bool.not_false]
    all_goals omega
  · set_option maxRecDepth 8000 in
    simp only [
        ↓reduceIte, hF, ↓fast_pow.pow_L_2TAG_PACKET_3_0_2_1_sem,
        ↓fast_pow.pow_L_2TAG_PACKET_1_0_2_2_sem, ↓fast_pow.pow_L_2TAG_PACKET_1_0_2_1_sem,
        ↓fast_pow.pow_B1_2_2_sem, ↓fast_pow.pow_B1_2_1_sem, ↓fast_pow.pow_start_1_sem,
        ↓fast_pow.pow_entry_1_sem, ↓Machine.get_setx, ↓Machine.get_setg,
        ↓Machine.get_setstk, ↓Machine.get_enter, ↓Machine.get_setFlags,
        ↓Machine.trace_set, ↓Machine.get_ite, ↓Machine.trace_ite, ↓Machine.obs_eq_get,
        ↓Machine.flags_get, ↓Machine.flags_trace, ↓sem_get_1, ↓sem_get_2, ↓sem_get_3,
        ↓sem_get_4, ↓sem_trace_1, ↓sem_trace_2, ↓sem_trace_3, ↓sem_trace_4, ↓load_const,
        cc_iff, ea, and_imm, and_imm_left, ilog2_lit, or_eq_zero, or_mod32, or_lt_2p31,
        Nat.mod_mod, Nat.zero_or, Nat.or_zero, Nat.sub_zero, Nat.add_mod_right, lane_eq,
        Machine.io_eq_get, Nat.xor_self, Loc.x.injEq, Loc.g.injEq, Loc.m.injEq,
        Bool.toNat_eq_zero, Bool.toNat_eq_one, Nat.reducePow, Nat.reduceMul,
        Nat.reduceMod, Nat.reduceAdd, Nat.reduceSub, Nat.reduceDiv, Nat.reduceEqDiff,
        Nat.reduceLTLE, Nat.reduceLeDiff, Nat.reduceLT, Nat.reduceGT, Nat.reduceOr,
        Nat.reduceXor, reduceCtorEq, Bool.not_eq_true', Bool.not_eq_true,
        decide_eq_true_eq, decide_eq_false_iff_not, Bool.and_eq_true, Bool.or_eq_true,
        bne_iff_ne, beq_iff_eq, ne_eq, Bool.not_eq_false', Bool.not_eq_false, decide_not,
        not_not, Bool.decide_eq_true, Bool.false_eq_true, Bool.true_eq_false,
        not_false_eq_true, not_true_eq_false, and_true, true_and, and_false, false_and,
        or_true, true_or, or_false, false_or, not_true, not_false_iff, iff_self, true_iff,
        iff_true, false_iff, iff_false, ite_self, decide_eq_decide, decide_False,
        decide_True, Bool.not_true, Bool.not_false]
    all_goals omega
  · set_option maxRecDepth 8000 in
    simp only [
        ↓reduceIte, hF, ↓fast_pow.pow_L_2TAG_PACKET_1_0_2_1_sem, ↓fast_pow.pow_B1_2_2_sem,
        ↓fast_pow.pow_B1_2_1_sem, ↓fast_pow.pow_start_1_sem, ↓fast_pow.pow_entry_1_sem,
        ↓Machine.get_setx, ↓Machine.get_setg, ↓Machine.get_setstk, ↓Machine.get_enter,
        ↓Machine.get_setFlags, ↓Machine.trace_set, ↓Machine.get_ite, ↓Machine.trace_ite,
        ↓Machine.obs_eq_get, ↓Machine.flags_get, ↓Machine.flags_trace, ↓sem_get_1,
        ↓sem_get_2, ↓sem_get_3, ↓sem_get_4, ↓sem_trace_1, ↓sem_trace_2, ↓sem_trace_3,
        ↓sem_trace_4, ↓load_const, cc_iff, ea, and_imm, and_imm_left, ilog2_lit,
        or_eq_zero, or_mod32, or_lt_2p31, Nat.mod_mod, Nat.zero_or, Nat.or_zero,
        Nat.sub_zero, Nat.add_mod_right, lane_eq, Machine.io_eq_get, Nat.xor_self,
        Loc.x.injEq, Loc.g.injEq, Loc.m.injEq, Bool.toNat_eq_zero, Bool.toNat_eq_one,
        Nat.reducePow, Nat.reduceMul, Nat.reduceMod, Nat.reduceAdd, Nat.reduceSub,
        Nat.reduceDiv, Nat.reduceEqDiff, Nat.reduceLTLE, Nat.reduceLeDiff, Nat.reduceLT,
        Nat.reduceGT, Nat.reduceOr, Nat.reduceXor, reduceCtorEq, Bool.not_eq_true',
        Bool.not_eq_true, decide_eq_true_eq, decide_eq_false_iff_not, Bool.and_eq_true,
        Bool.or_eq_true, bne_iff_ne, beq_iff_eq, ne_eq, Bool.not_eq_false',
        Bool.not_eq_false, decide_not, not_not, Bool.decide_eq_true, Bool.false_eq_true,
        Bool.true_eq_false, not_false_eq_true, not_true_eq_false, and_true, true_and,
        and_false, false_and, or_true, true_or, or_false, false_or, not_true,
        not_false_iff, iff_self, true_iff, iff_true, false_iff, iff_false, ite_self,
        decide_eq_decide, decide_False, decide_True, Bool.not_true, Bool.not_false]
    all_goals omega
  · set_option maxRecDepth 8000 in
    simp only [
        ↓reduceIte, hF, ↓fast_pow.pow_B1_2_1_sem, ↓fast_pow.pow_start_1_sem,
        ↓fast_pow.pow_entry_1_sem, ↓Machine.get_setx, ↓Machine.get_setg,
        ↓Machine.get_setstk, ↓Machine.get_enter, ↓Machine.get_setFlags,
        ↓Machine.trace_set, ↓Machine.get_ite, ↓Machine.trace_ite, ↓Machine.obs_eq_get,
        ↓Machine.flags_get, ↓Machine.flags_trace, ↓sem_get_1, ↓sem_get_2, ↓sem_get_3,
        ↓sem_get_4, ↓sem_trace_1, ↓sem_trace_2, ↓sem_trace_3, ↓sem_trace_4, ↓load_const,
        cc_iff, ea, and_imm, and_imm_left, ilog2_lit, or_eq_zero, or_mod32, or_lt_2p31,
        Nat.mod_mod, Nat.zero_or, Nat.or_zero, Nat.sub_zero, Nat.add_mod_right, lane_eq,
        Machine.io_eq_get, Nat.xor_self, Loc.x.injEq, Loc.g.injEq, Loc.m.injEq,
        Bool.toNat_eq_zero, Bool.toNat_eq_one, Nat.reducePow, Nat.reduceMul,
        Nat.reduceMod, Nat.reduceAdd, Nat.reduceSub, Nat.reduceDiv, Nat.reduceEqDiff,
        Nat.reduceLTLE, Nat.reduceLeDiff, Nat.reduceLT, Nat.reduceGT, Nat.reduceOr,
        Nat.reduceXor, reduceCtorEq, Bool.not_eq_true', Bool.not_eq_true,
        decide_eq_true_eq, decide_eq_false_iff_not, Bool.and_eq_true, Bool.or_eq_true,
        bne_iff_ne, beq_iff_eq, ne_eq, Bool.not_eq_false', Bool.not_eq_false, decide_not,
        not_not, Bool.decide_eq_true, Bool.false_eq_true, Bool.true_eq_false,
        not_false_eq_true, not_true_eq_false, and_true, true_and, and_false, false_and,
        or_true, true_or, or_false, false_or, not_true, not_false_iff, iff_self, true_iff,
        iff_true, false_iff, iff_false, ite_self, decide_eq_decide, decide_False,
        decide_True, Bool.not_true, Bool.not_false]
    all_goals omega

set_option maxHeartbeats 1000000 in
theorem fast_pow_zero_near_one_run (cpu : Cpu) (s : Machine)
    (h3 : s.arg0 / 2 ^ 48 = 16367 ∨ s.arg0 / 2 ^ 48 = 16368)
    (hy : s.arg1 = 0 ∨ s.arg1 = 0x8000000000000000) :
    (fast_pow cpu s).result = 0x3FF0000000000000 := by
  simp only [Machine.io_eq_get, Nat.reducePow] at h3 hy
  have hE := pow_L4_1_eax cpu (fast_pow.L_2TAG_PACKET_3_0_2_1 cpu (fast_pow.L_2TAG_PACKET_2_0_2_1 cpu (fast_pow.L_2TAG_PACKET_1_0_2_1 cpu (fast_pow.B1_2_2 cpu (fast_pow.B1_2_1 cpu (fast_pow.start_1 cpu (fast_pow.entry_1 cpu s)))))))
  have hF := pow_L4_1_flags cpu (fast_pow.L_2TAG_PACKET_3_0_2_1 cpu (fast_pow.L_2TAG_PACKET_2_0_2_1 cpu (fast_pow.L_2TAG_PACKET_1_0_2_1 cpu (fast_pow.B1_2_2 cpu (fast_pow.B1_2_1 cpu (fast_pow.start_1 cpu (fast_pow.entry_1 cpu s)))))))
  set_option maxRecDepth 8000 in
  simp only [
      ↓reduceIte, ↓fast_pow.pow_L_2TAG_PACKET_3_0_2_1_sem,
      ↓fast_pow.pow_L_2TAG_PACKET_2_0_2_1_sem, ↓fast_pow.pow_L_2TAG_PACKET_1_0_2_1_sem,
      ↓fast_pow.pow_B1_2_2_sem, ↓fast_pow.pow_B1_2_1_sem, ↓fast_pow.pow_start_1_sem,
      ↓fast_pow.pow_entry_1_sem, ↓Machine.get_setx, ↓Machine.get_setg, ↓Machine.get_setstk,
      ↓Machine.get_enter, ↓Machine.get_setFlags, ↓Machine.trace_set, ↓Machine.get_ite,
      ↓Machine.trace_ite, ↓Machine.obs_eq_get, ↓Machine.flags_get, ↓Machine.flags_trace,
      ↓sem_get_1, ↓sem_get_2, ↓sem_get_3, ↓sem_get_4, ↓sem_trace_1, ↓sem_trace_2,
      ↓sem_trace_3, ↓sem_trace_4, ↓load_const, cc_iff, ea, and_imm, and_imm_left, ilog2_lit,
      or_eq_zero, or_mod32, or_lt_2p31, Nat.mod_mod, Nat.zero_or, Nat.or_zero, Nat.sub_zero,
      Nat.add_mod_right, lane_eq, Machine.io_eq_get, Nat.xor_self, Loc.x.injEq, Loc.g.injEq,
      Loc.m.injEq, Bool.toNat_eq_zero, Bool.toNat_eq_one, Nat.reducePow, Nat.reduceMul,
      Nat.reduceMod, Nat.reduceAdd, Nat.reduceSub, Nat.reduceDiv, Nat.reduceEqDiff,
      Nat.reduceLTLE, Nat.reduceLeDiff, Nat.reduceLT, Nat.reduceGT, Nat.reduceOr,
      Nat.reduceXor, reduceCtorEq, Bool.not_eq_true', Bool.not_eq_true, decide_eq_true_eq,
      decide_eq_false_iff_not, Bool.and_eq_true, Bool.or_eq_true, bne_iff_ne, beq_iff_eq,
      ne_eq, Bool.not_eq_false', Bool.not_eq_false, decide_not, not_not,
      Bool.decide_eq_true, Bool.false_eq_true, Bool.true_eq_false, not_false_eq_true,
      not_true_eq_false, and_true, true_and, and_false, false_and, or_true, true_or,
      or_false, false_or, not_true, not_false_iff, iff_self, true_iff, iff_true, false_iff,
      iff_false, ite_self, decide_eq_decide, decide_False, decide_True, Bool.not_true,
      Bool.not_false] at hE
  rw [
      fast_pow, fast_pow.pow_entry_eq, fast_pow.pow_start_eq, fast_pow.pow_B1_2_eq, if_neg,
      fast_pow.pow_L_2TAG_PACKET_1_0_2_eq, if_pos, fast_pow.pow_L_2TAG_PACKET_2_0_2_eq,
      if_pos, fast_pow.pow_L_2TAG_PACKET_3_0_2_eq, fast_pow.pow_L_2TAG_PACKET_4_0_2_eq,
      if_pos, fast_pow.pow_L_2TAG_PACKET_5_0_2_eq, if_pos,
      fast_pow.pow_L_2TAG_PACKET_11_0_2_eq, if_pos, fast_pow.pow_L_2TAG_PACKET_38_0_2_eq,
      fast_pow.pow_L_2TAG_PACKET_37_0_2_eq, fast_pow.pow_B1_5_eq]
  · set_option maxRecDepth 8000 in
    simp only [
        ↓reduceIte, hF, ↓fast_pow.pow_B1_5_1_sem,
        ↓fast_pow.pow_L_2TAG_PACKET_37_0_2_1_sem,
        ↓fast_pow.pow_L_2TAG_PACKET_38_0_2_1_sem,
        ↓fast_pow.pow_L_2TAG_PACKET_11_0_2_1_sem, ↓fast_pow.pow_L_2TAG_PACKET_5_0_2_1_sem,
        ↓fast_pow.pow_L_2TAG_PACKET_3_0_2_1_sem, ↓fast_pow.pow_L_2TAG_PACKET_2_0_2_1_sem,
        ↓fast_pow.pow_L_2TAG_PACKET_1_0_2_1_sem, ↓fast_pow.pow_B1_2_2_sem,
        ↓fast_pow.pow_B1_2_1_sem, ↓fast_pow.pow_start_1_sem, ↓fast_pow.pow_entry_1_sem,
        ↓Machine.get_setx, ↓Machine.get_setg, ↓Machine.get_setstk, ↓Machine.get_enter,
        ↓Machine.get_setFlags, ↓Machine.trace_set, ↓Machine.get_ite, ↓Machine.trace_ite,
        ↓Machine.obs_eq_get, ↓Machine.flags_get, ↓Machine.flags_trace, ↓sem_get_1,
        ↓sem_get_2, ↓sem_get_3, ↓sem_get_4, ↓sem_trace_1, ↓sem_trace_2, ↓sem_trace_3,
        ↓sem_trace_4, ↓load_const, cc_iff, ea, and_imm, and_imm_left, ilog2_lit,
        or_eq_zero, or_mod32, or_lt_2p31, Nat.mod_mod, Nat.zero_or, Nat.or_zero,
        Nat.sub_zero, Nat.add_mod_right, lane_eq, Machine.io_eq_get, Nat.xor_self,
        Loc.x.injEq, Loc.g.injEq, Loc.m.injEq, Bool.toNat_eq_zero, Bool.toNat_eq_one,
        Nat.reducePow, Nat.reduceMul, Nat.reduceMod, Nat.reduceAdd, Nat.reduceSub,
        Nat.reduceDiv, Nat.reduceEqDiff, Nat.reduceLTLE, Nat.reduceLeDiff, Nat.reduceLT,
        Nat.reduceGT, Nat.reduceOr, Nat.reduceXor, reduceCtorEq, Bool.not_eq_true',
        Bool.not_eq_true, decide_eq_true_eq, decide_eq_false_iff_not, Bool.and_eq_true,
        Bool.or_eq_true, bne_iff_ne, beq_iff_eq, ne_eq, Bool.not_eq_false',
        Bool.not_eq_false, decide_not, not_not, Bool.decide_eq_true, Bool.false_eq_true,
        Bool.true_eq_false, not_false_eq_true, not_true_eq_false, and_true, true_and,
        and_false, false_and, or_true, true_or, or_false, false_or, not_true,
        not_false_iff, iff_self, true_iff, iff_true, false_iff, iff_false, ite_self,
        decide_eq_decide, decide_False, decide_True, Bool.not_true, Bool.not_false]
  · set_option maxRecDepth 8000 in
    simp only [
        ↓reduceIte, hF, ↓fast_pow.pow_L_2TAG_PACKET_11_0_2_1_sem,
        ↓fast_pow.pow_L_2TAG_PACKET_5_0_2_1_sem, ↓fast_pow.pow_L_2TAG_PACKET_3_0_2_1_sem,
        ↓fast_pow.pow_L_2TAG_PACKET_2_0_2_1_sem, ↓fast_pow.pow_L_2TAG_PACKET_1_0_2_1_sem,
        ↓fast_pow.pow_B1_2_2_sem, ↓fast_pow.pow_B1_2_1_sem, ↓fast_pow.pow_start_1_sem,
        ↓fast_pow.pow_entry_1_sem, ↓Machine.get_setx, ↓Machine.get_setg,
        ↓Machine.get_setstk, ↓Machine.get_enter, ↓Machine.get_setFlags,
        ↓Machine.trace_set, ↓Machine.get_ite, ↓Machine.trace_ite, ↓Machine.obs_eq_get,
        ↓Machine.flags_get, ↓Machine.flags_trace, ↓sem_get_1, ↓sem_get_2, ↓sem_get_3,
        ↓sem_get_4, ↓sem_trace_1, ↓sem_trace_2, ↓sem_trace_3, ↓sem_trace_4, ↓load_const,
        cc_iff, ea, and_imm, and_imm_left, ilog2_lit, or_eq_zero, or_mod32, or_lt_2p31,
        Nat.mod_mod, Nat.zero_or, Nat.or_zero, Nat.sub_zero, Nat.add_mod_right, lane_eq,
        Machine.io_eq_get, Nat.xor_self, Loc.x.injEq, Loc.g.injEq, Loc.m.injEq,
        Bool.toNat_eq_zero, Bool.toNat_eq_one, Nat.reducePow, Nat.reduceMul,
        Nat.reduceMod, Nat.reduceAdd, Nat.reduceSub, Nat.reduceDiv, Nat.reduceEqDiff,
        Nat.reduceLTLE, Nat.reduceLeDiff, Nat.reduceLT, Nat.reduceGT, Nat.reduceOr,
        Nat.reduceXor, reduceCtorEq, Bool.not_eq_true', Bool.not_eq_true,
        decide_eq_true_eq, decide_eq_false_iff_not, Bool.and_eq_true, Bool.or_eq_true,
        bne_iff_ne, beq_iff_eq, ne_eq, Bool.not_eq_false', Bool.not_eq_false, decide_not,
        not_not, Bool.decide_eq_true, Bool.false_eq_true, Bool.true_eq_false,
        not_false_eq_true, not_true_eq_false, and_true, true_and, and_false, false_and,
        or_true, true_or, or_false, false_or, not_true, not_false_iff, iff_self, true_iff,
        iff_true, false_iff, iff_false, ite_self, decide_eq_decide, decide_False,
        decide_True, Bool.not_true, Bool.not_false]
    all_goals omega
  · set_option maxRecDepth 8000 in
    simp only [
        ↓reduceIte, hF, ↓fast_pow.pow_L_2TAG_PACKET_5_0_2_1_sem,
        ↓fast_pow.pow_L_2TAG_PACKET_3_0_2_1_sem, ↓fast_pow.pow_L_2TAG_PACKET_2_0_2_1_sem,
        ↓fast_pow.pow_L_2TAG_PACKET_1_0_2_1_sem, ↓fast_pow.pow_B1_2_2_sem,
        ↓fast_pow.pow_B1_2_1_sem, ↓fast_pow.pow_start_1_sem, ↓fast_pow.pow_entry_1_sem,
        ↓Machine.get_setx, ↓Machine.get_setg, ↓Machine.get_setstk, ↓Machine.get_enter,
        ↓Machine.get_setFlags, ↓Machine.trace_set, ↓Machine.get_ite, ↓Machine.trace_ite,
        ↓Machine.obs_eq_get, ↓Machine.flags_get, ↓Machine.flags_trace, ↓sem_get_1,
        ↓sem_get_2, ↓sem_get_3, ↓sem_get_4, ↓sem_trace_1, ↓sem_trace_2, ↓sem_trace_3,
        ↓sem_trace_4, ↓load_const, cc_iff, ea, and_imm, and_imm_left, ilog2_lit,
        or_eq_zero, or_mod32, or_lt_2p31, Nat.mod_mod, Nat.zero_or, Nat.or_zero,
        Nat.sub_zero, Nat.add_mod_right, lane_eq, Machine.io_eq_get, Nat.xor_self,
        Loc.x.injEq, Loc.g.injEq, Loc.m.injEq, Bool.toNat_eq_zero, Bool.toNat_eq_one,
        Nat.reducePow, Nat.reduceMul, Nat.reduceMod, Nat.reduceAdd, Nat.reduceSub,
        Nat.reduceDiv, Nat.reduceEqDiff, Nat.reduceLTLE, Nat.reduceLeDiff, Nat.reduceLT,
        Nat.reduceGT, Nat.reduceOr, Nat.reduceXor, reduceCtorEq, Bool.not_eq_true',
        Bool.not_eq_true, decide_eq_true_eq, decide_eq_false_iff_not, Bool.and_eq_true,
        Bool.or_eq_true, bne_iff_ne, beq_iff_eq, ne_eq, Bool.not_eq_false',
        Bool.not_eq_false, decide_not, not_not, Bool.decide_eq_true, Bool.false_eq_true,
        Bool.true_eq_false, not_false_eq_true, not_true_eq_false, and_true, true_and,
        and_false, false_and, or_true, true_or, or_false, false_or, not_true,
        not_false_iff, iff_self, true_iff, iff_true, false_iff, iff_false, ite_self,
        decide_eq_decide, decide_False, decide_True, Bool.not_true, Bool.not_false]
    all_goals omega
  · set_option maxRecDepth 8000 in
    simp only [
        ↓reduceIte, hF, ↓fast_pow.pow_L_2TAG_PACKET_3_0_2_1_sem,
        ↓fast_pow.pow_L_2TAG_PACKET_2_0_2_1_sem, ↓fast_pow.pow_L_2TAG_PACKET_1_0_2_1_sem,
        ↓fast_pow.pow_B1_2_2_sem, ↓fast_pow.pow_B1_2_1_sem, ↓fast_pow.pow_start_1_sem,
        ↓fast_pow.pow_entry_1_sem, ↓Machine.get_setx, ↓Machine.get_setg,
        ↓Machine.get_setstk, ↓Machine.get_enter, ↓Machine.get_setFlags,
        ↓Machine.trace_set, ↓Machine.get_ite, ↓Machine.trace_ite, ↓Machine.obs_eq_get,
        ↓Machine.flags_get, ↓Machine.flags_trace, ↓sem_get_1, ↓sem_get_2, ↓sem_get_3,
        ↓sem_get_4, ↓sem_trace_1, ↓sem_trace_2, ↓sem_trace_3, ↓sem_trace_4, ↓load_const,
        cc_iff, ea, and_imm, and_imm_left, ilog2_lit, or_eq_zero, or_mod32, or_lt_2p31,
        Nat.mod_mod, Nat.zero_or, Nat.or_zero, Nat.sub_zero, Nat.add_mod_right, lane_eq,
        Machine.io_eq_get, Nat.xor_self, Loc.x.injEq, Loc.g.injEq, Loc.m.injEq,
        Bool.toNat_eq_zero, Bool.toNat_eq_one, Nat.reducePow, Nat.reduceMul,
        Nat.reduceMod, Nat.reduceAdd, Nat.reduceSub, Nat.reduceDiv, Nat.reduceEqDiff,
        Nat.reduceLTLE, Nat.reduceLeDiff, Nat.reduceLT, Nat.reduceGT, Nat.reduceOr,
        Nat.reduceXor, reduceCtorEq, Bool.not_eq_true', Bool.not_eq_true,
        decide_eq_true_eq, decide_eq_false_iff_not, Bool.and_eq_true, Bool.or_eq_true,
        bne_iff_ne, beq_iff_eq, ne_eq, Bool.not_eq_false', Bool.not_eq_false, decide_not,
        not_not, Bool.decide_eq_true, Bool.false_eq_true, Bool.true_eq_false,
        not_false_eq_true, not_true_eq_false, and_true, true_and, and_false, false_and,
        or_true, true_or, or_false, false_or, not_true, not_false_iff, iff_self, true_iff,
        iff_true, false_iff, iff_false, ite_self, decide_eq_decide, decide_False,
        decide_True, Bool.not_true, Bool.not_false]
    all_goals omega
  · set_option maxRecDepth 8000 in
    simp only [
        ↓reduceIte, hF, ↓fast_pow.pow_L_2TAG_PACKET_2_0_2_1_sem,
        ↓fast_pow.pow_L_2TAG_PACKET_1_0_2_1_sem, ↓fast_pow.pow_B1_2_2_sem,
        ↓fast_pow.pow_B1_2_1_sem, ↓fast_pow.pow_start_1_sem, ↓fast_pow.pow_entry_1_sem,
        ↓Machine.get_setx, ↓Machine.get_setg, ↓Machine.get_setstk, ↓Machine.get_enter,
        ↓Machine.get_setFlags, ↓Machine.trace_set, ↓Machine.get_ite, ↓Machine.trace_ite,
        ↓Machine.obs_eq_get, ↓Machine.flags_get, ↓Machine.flags_trace, ↓sem_get_1,
        ↓sem_get_2, ↓sem_get_3, ↓sem_get_4, ↓sem_trace_1, ↓sem_trace_2, ↓sem_trace_3,
        ↓sem_trace_4, ↓load_const, cc_iff, ea, and_imm, and_imm_left, ilog2_lit,
        or_eq_zero, or_mod32, or_lt_2p31, Nat.mod_mod, Nat.zero_or, Nat.or_zero,
        Nat.sub_zero, Nat.add_mod_right, lane_eq, Machine.io_eq_get, Nat.xor_self,
        Loc.x.injEq, Loc.g.injEq, Loc.m.injEq, Bool.toNat_eq_zero, Bool.toNat_eq_one,
        Nat.reducePow, Nat.reduceMul, Nat.reduceMod, Nat.reduceAdd, Nat.reduceSub,
        Nat.reduceDiv, Nat.reduceEqDiff, Nat.reduceLTLE, Nat.reduceLeDiff, Nat.reduceLT,
        Nat.reduceGT, Nat.reduceOr, Nat.reduceXor, reduceCtorEq, Bool.not_eq_true',
        Bool.not_eq_true, decide_eq_true_eq, decide_eq_false_iff_not, Bool.and_eq_true,
        Bool.or_eq_true, bne_iff_ne, beq_iff_eq, ne_eq, Bool.not_eq_false',
        Bool.not_eq_false, decide_not, not_not, Bool.decide_eq_true, Bool.false_eq_true,
        Bool.true_eq_false, not_false_eq_true, not_true_eq_false, and_true, true_and,
        and_false, false_and, or_true, true_or, or_false, false_or, not_true,
        not_false_iff, iff_self, true_iff, iff_true, false_iff, iff_false, ite_self,
        decide_eq_decide, decide_False, decide_True, Bool.not_true, Bool.not_false]
    all_goals omega
  · set_option maxRecDepth 8000 in
    simp only [
        ↓reduceIte, hF, ↓fast_pow.pow_L_2TAG_PACKET_1_0_2_1_sem, ↓fast_pow.pow_B1_2_2_sem,
        ↓fast_pow.pow_B1_2_1_sem, ↓fast_pow.pow_start_1_sem, ↓fast_pow.pow_entry_1_sem,
        ↓Machine.get_setx, ↓Machine.get_setg, ↓Machine.get_setstk, ↓Machine.get_enter,
        ↓Machine.get_setFlags, ↓Machine.trace_set, ↓Machine.get_ite, ↓Machine.trace_ite,
        ↓Machine.obs_eq_get, ↓Machine.flags_get, ↓Machine.flags_trace, ↓sem_get_1,
        ↓sem_get_2, ↓sem_get_3, ↓sem_get_4, ↓sem_trace_1, ↓sem_trace_2, ↓sem_trace_3,
        ↓sem_trace_4, ↓load_const, cc_iff, ea, and_imm, and_imm_left, ilog2_lit,
        or_eq_zero, or_mod32, or_lt_2p31, Nat.mod_mod, Nat.zero_or, Nat.or_zero,
        Nat.sub_zero, Nat.add_mod_right, lane_eq, Machine.io_eq_get, Nat.xor_self,
        Loc.x.injEq, Loc.g.injEq, Loc.m.injEq, Bool.toNat_eq_zero, Bool.toNat_eq_one,
        Nat.reducePow, Nat.reduceMul, Nat.reduceMod, Nat.reduceAdd, Nat.reduceSub,
        Nat.reduceDiv, Nat.reduceEqDiff, Nat.reduceLTLE, Nat.reduceLeDiff, Nat.reduceLT,
        Nat.reduceGT, Nat.reduceOr, Nat.reduceXor, reduceCtorEq, Bool.not_eq_true',
        Bool.not_eq_true, decide_eq_true_eq, decide_eq_false_iff_not, Bool.and_eq_true,
        Bool.or_eq_true, bne_iff_ne, beq_iff_eq, ne_eq, Bool.not_eq_false',
        Bool.not_eq_false, decide_not, not_not, Bool.decide_eq_true, Bool.false_eq_true,
        Bool.true_eq_false, not_false_eq_true, not_true_eq_false, and_true, true_and,
        and_false, false_and, or_true, true_or, or_false, false_or, not_true,
        not_false_iff, iff_self, true_iff, iff_true, false_iff, iff_false, ite_self,
        decide_eq_decide, decide_False, decide_True, Bool.not_true, Bool.not_false]
    all_goals omega
  · set_option maxRecDepth 8000 in
    simp only [
        ↓reduceIte, hF, ↓fast_pow.pow_B1_2_1_sem, ↓fast_pow.pow_start_1_sem,
        ↓fast_pow.pow_entry_1_sem, ↓Machine.get_setx, ↓Machine.get_setg,
        ↓Machine.get_setstk, ↓Machine.get_enter, ↓Machine.get_setFlags,
        ↓Machine.trace_set, ↓Machine.get_ite, ↓Machine.trace_ite, ↓Machine.obs_eq_get,
        ↓Machine.flags_get, ↓Machine.flags_trace, ↓sem_get_1, ↓sem_get_2, ↓sem_get_3,
        ↓sem_get_4, ↓sem_trace_1, ↓sem_trace_2, ↓sem_trace_3, ↓sem_trace_4, ↓load_const,
        cc_iff, ea, and_imm, and_imm_left, ilog2_lit, or_eq_zero, or_mod32, or_lt_2p31,
        Nat.mod_mod, Nat.zero_or, Nat.or_zero, Nat.sub_zero, Nat.add_mod_right, lane_eq,
        Machine.io_eq_get, Nat.xor_self, Loc.x.injEq, Loc.g.injEq, Loc.m.injEq,
        Bool.toNat_eq_zero, Bool.toNat_eq_one, Nat.reducePow, Nat.reduceMul,
        Nat.reduceMod, Nat.reduceAdd, Nat.reduceSub, Nat.reduceDiv, Nat.reduceEqDiff,
        Nat.reduceLTLE, Nat.reduceLeDiff, Nat.reduceLT, Nat.reduceGT, Nat.reduceOr,
        Nat.reduceXor, reduceCtorEq, Bool.not_eq_true', Bool.not_eq_true,
        decide_eq_true_eq, decide_eq_false_iff_not, Bool.and_eq_true, Bool.or_eq_true,
        bne_iff_ne, beq_iff_eq, ne_eq, Bool.not_eq_false', Bool.not_eq_false, decide_not,
        not_not, Bool.decide_eq_true, Bool.false_eq_true, Bool.true_eq_false,
        not_false_eq_true, not_true_eq_false, and_true, true_and, and_false, false_and,
        or_true, true_or, or_false, false_or, not_true, not_false_iff, iff_self, true_iff,
        iff_true, false_iff, iff_false, ite_self, decide_eq_decide, decide_False,
        decide_True, Bool.not_true, Bool.not_false]
    all_goals omega

set_option maxHeartbeats 1000000 in
theorem fast_pow_zero_denormal_run (cpu : Cpu) (s : Machine)
    (h1 : 0 < s.arg0) (h2 : s.arg0 / 2 ^ 48 < 16)
    (hy : s.arg1 = 0 ∨ s.arg1 = 0x8000000000000000) :
    (fast_pow cpu s).result = 0x3FF0000000000000 := by
  simp only [Machine.io_eq_get, Nat.reducePow] at h1 h2 hy
  have hE := pow_L4_1_eax cpu (fast_pow.L_2TAG_PACKET_8_0_2_2 cpu (fast_pow.L_2TAG_PACKET_8_0_2_1 cpu (fast_pow.L_2TAG_PACKET_0_0_2_3 cpu (fast_pow.L_2TAG_PACKET_0_0_2_2 cpu (fast_pow.L_2TAG_PACKET_0_0_2_1 cpu (fast_pow.B1_2_1 cpu (fast_pow.start_1 cpu (fast_pow.entry_1 cpu s))))))))
  have hF := pow_L4_1_flags cpu (fast_pow.L_2TAG_PACKET_8_0_2_2 cpu (fast_pow.L_2TAG_PACKET_8_0_2_1 cpu (fast_pow.L_2TAG_PACKET_0_0_2_3 cpu (fast_pow.L_2TAG_PACKET_0_0_2_2 cpu (fast_pow.L_2TAG_PACKET_0_0_2_1 cpu (fast_pow.B1_2_1 cpu (fast_pow.start_1 cpu (fast_pow.entry_1 cpu s))))))))
  set_option maxRecDepth 8000 in
  simp only [
      ↓reduceIte, ↓fast_pow.pow_L_2TAG_PACKET_8_0_2_2_sem,
      ↓fast_pow.pow_L_2TAG_PACKET_8_0_2_1_sem, ↓fast_pow.pow_L_2TAG_PACKET_0_0_2_3_sem,
      ↓fast_pow.pow_L_2TAG_PACKET_0_0_2_2_sem, ↓fast_pow.pow_L_2TAG_PACKET_0_0_2_1_sem,
      ↓fast_pow.pow_B1_2_1_sem, ↓fast_pow.pow_start_1_sem, ↓fast_pow.pow_entry_1_sem,
      ↓Machine.get_setx, ↓Machine.get_setg, ↓Machine.get_setstk, ↓Machine.get_enter,
      ↓Machine.get_setFlags, ↓Machine.trace_set, ↓Machine.get_ite, ↓Machine.trace_ite,
      ↓Machine.obs_eq_get, ↓Machine.flags_get, ↓Machine.flags_trace, ↓sem_get_1, ↓sem_get_2,
      ↓sem_get_3, ↓sem_get_4, ↓sem_trace_1, ↓sem_trace_2, ↓sem_trace_3, ↓sem_trace_4,
      ↓load_const, cc_iff, ea, and_imm, and_imm_left, ilog2_lit, or_eq_zero, or_mod32,
      or_lt_2p31, Nat.mod_mod, Nat.zero_or, Nat.or_zero, Nat.sub_zero, Nat.add_mod_right,
      lane_eq, Machine.io_eq_get, Nat.xor_self, Loc.x.injEq, Loc.g.injEq, Loc.m.injEq,
      Bool.toNat_eq_zero, Bool.toNat_eq_one, Nat.reducePow, Nat.reduceMul, Nat.reduceMod,
      Nat.reduceAdd, Nat.reduceSub, Nat.reduceDiv, Nat.reduceEqDiff, Nat.reduceLTLE,
      Nat.reduceLeDiff, Nat.reduceLT, Nat.reduceGT, Nat.reduceOr, Nat.reduceXor,
      reduceCtorEq, Bool.not_eq_true', Bool.not_eq_true, decide_eq_true_eq,
      decide_eq_false_iff_not, Bool.and_eq_true, Bool.or_eq_true, bne_iff_ne, beq_iff_eq,
      ne_eq, Bool.not_eq_false', Bool.not_eq_false, decide_not, not_not,
      Bool.decide_eq_true, Bool.false_eq_true, Bool.true_eq_false, not_false_eq_true,
      not_true_eq_false, and_true, true_and, and_false, false_and, or_true, true_or,
      or_false, false_or, not_true, not_false_iff, iff_self, true_iff, iff_true, false_iff,
      iff_false, ite_self, decide_eq_decide, decide_False, decide_True, Bool.not_true,
      Bool.not_false] at hE
  rw [
      fast_pow, fast_pow.pow_entry_eq, fast_pow.pow_start_eq, fast_pow.pow_B1_2_eq, if_pos,
      fast_pow.pow_L_2TAG_PACKET_0_0_2_eq, if_neg, if_neg,
      fast_pow.pow_L_2TAG_PACKET_8_0_2_eq, if_neg, fast_pow.pow_L_2TAG_PACKET_4_0_2_eq,
      if_pos, fast_pow.pow_L_2TAG_PACKET_5_0_2_eq, if_pos,
      fast_pow.pow_L_2TAG_PACKET_11_0_2_eq, if_pos, fast_pow.pow_L_2TAG_PACKET_38_0_2_eq,
      fast_pow.pow_L_2TAG_PACKET_37_0_2_eq, fast_pow.pow_B1_5_eq]
  · set_option maxRecDepth 8000 in
    simp only [
        ↓reduceIte, hF, ↓fast_pow.pow_B1_5_1_sem,
        ↓fast_pow.pow_L_2TAG_PACKET_37_0_2_1_sem,
        ↓fast_pow.pow_L_2TAG_PACKET_38_0_2_1_sem,
        ↓fast_pow.pow_L_2TAG_PACKET_11_0_2_1_sem, ↓fast_pow.pow_L_2TAG_PACKET_5_0_2_1_sem,
        ↓fast_pow.pow_L_2TAG_PACKET_8_0_2_2_sem, ↓fast_pow.pow_L_2TAG_PACKET_8_0_2_1_sem,
        ↓fast_pow.pow_L_2TAG_PACKET_0_0_2_3_sem, ↓fast_pow.pow_L_2TAG_PACKET_0_0_2_2_sem,
        ↓fast_pow.pow_L_2TAG_PACKET_0_0_2_1_sem, ↓fast_pow.pow_B1_2_1_sem,
        ↓fast_pow.pow_start_1_sem, ↓fast_pow.pow_entry_1_sem, ↓Machine.get_setx,
        ↓Machine.get_setg, ↓Machine.get_setstk, ↓Machine.get_enter, ↓Machine.get_setFlags,
        ↓Machine.trace_set, ↓Machine.get_ite, ↓Machine.trace_ite, ↓Machine.obs_eq_get,
        ↓Machine.flags_get, ↓Machine.flags_trace, ↓sem_get_1, ↓sem_get_2, ↓sem_get_3,
        ↓sem_get_4, ↓sem_trace_1, ↓sem_trace_2, ↓sem_trace_3, ↓sem_trace_4, ↓load_const,
        cc_iff, ea, and_imm, and_imm_left, ilog2_lit, or_eq_zero, or_mod32, or_lt_2p31,
        Nat.mod_mod, Nat.zero_or, Nat.or_zero, Nat.sub_zero, Nat.add_mod_right, lane_eq,
        Machine.io_eq_get, Nat.xor_self, Loc.x.injEq, Loc.g.injEq, Loc.m.injEq,
        Bool.toNat_eq_zero, Bool.toNat_eq_one, Nat.reducePow, Nat.reduceMul,
        Nat.reduceMod, Nat.reduceAdd, Nat.reduceSub, Nat.reduceDiv, Nat.reduceEqDiff,
        Nat.reduceLTLE, Nat.reduceLeDiff, Nat.reduceLT, Nat.reduceGT, Nat.reduceOr,
        Nat.reduceXor, reduceCtorEq, Bool.not_eq_true', Bool.not_eq_true,
        decide_eq_true_eq, decide_eq_false_iff_not, Bool.and_eq_true, Bool.or_eq_true,
        bne_iff_ne, beq_iff_eq, ne_eq, Bool.not_eq_false', Bool.not_eq_false, decide_not,
        not_not, Bool.decide_eq_true, Bool.false_eq_true, Bool.true_eq_false,
        not_false_eq_true, not_true_eq_false, and_true, true_and, and_false, false_and,
        or_true, true_or, or_false, false_or, not_true, not_false_iff, iff_self, true_iff,
        iff_true, false_iff, iff_false, ite_self, decide_eq_decide, decide_False,
        decide_True, Bool.not_true, Bool.not_false]
  · set_option maxRecDepth 8000 in
    simp only [
        ↓reduceIte, hF, ↓fast_pow.pow_L_2TAG_PACKET_11_0_2_1_sem,
        ↓fast_pow.pow_L_2TAG_PACKET_5_0_2_1_sem, ↓fast_pow.pow_L_2TAG_PACKET_8_0_2_2_sem,
        ↓fast_pow.pow_L_2TAG_PACKET_8_0_2_1_sem, ↓fast_pow.pow_L_2TAG_PACKET_0_0_2_3_sem,
        ↓fast_pow.pow_L_2TAG_PACKET_0_0_2_2_sem, ↓fast_pow.pow_L_2TAG_PACKET_0_0_2_1_sem,
        ↓fast_pow.pow_B1_2_1_sem, ↓fast_pow.pow_start_1_sem, ↓fast_pow.pow_entry_1_sem,
        ↓Machine.get_setx, ↓Machine.get_setg, ↓Machine.get_setstk, ↓Machine.get_enter,
        ↓Machine.get_setFlags, ↓Machine.trace_set, ↓Machine.get_ite, ↓Machine.trace_ite,
        ↓Machine.obs_eq_get, ↓Machine.flags_get, ↓Machine.flags_trace, ↓sem_get_1,
        ↓sem_get_2, ↓sem_get_3, ↓sem_get_4, ↓sem_trace_1, ↓sem_trace_2, ↓sem_trace_3,
        ↓sem_trace_4, ↓load_const, cc_iff, ea, and_imm, and_imm_left, ilog2_lit,
        or_eq_zero, or_mod32, or_lt_2p31, Nat.mod_mod, Nat.zero_or, Nat.or_zero,
        Nat.sub_zero, Nat.add_mod_right, lane_eq, Machine.io_eq_get, Nat.xor_self,
        Loc.x.injEq, Loc.g.injEq, Loc.m.injEq, Bool.toNat_eq_zero, Bool.toNat_eq_one,
        Nat.reducePow, Nat.reduceMul, Nat.reduceMod, Nat.reduceAdd, Nat.reduceSub,
        Nat.reduceDiv, Nat.reduceEqDiff, Nat.reduceLTLE, Nat.reduceLeDiff, Nat.reduceLT,
        Nat.reduceGT, Nat.reduceOr, Nat.reduceXor, reduceCtorEq, Bool.not_eq_true',
        Bool.not_eq_true, decide_eq_true_eq, decide_eq_false_iff_not, Bool.and_eq_true,
        Bool.or_eq_true, bne_iff_ne, beq_iff_eq, ne_eq, Bool.not_eq_false',
        Bool.not_eq_false, decide_not, not_not, Bool.decide_eq_true, Bool.false_eq_true,
        Bool.true_eq_false, not_false_eq_true, not_true_eq_false, and_true, true_and,
        and_false, false_and, or_true, true_or, or_false, false_or, not_true,
        not_false_iff, iff_self, true_iff, iff_true, false_iff, iff_false, ite_self,
        decide_eq_decide, decide_False, decide_True, Bool.not_true, Bool.not_false]
    all_goals omega
  · set_option maxRecDepth 8000 in
    simp only [
        ↓reduceIte, hF, ↓fast_pow.pow_L_2TAG_PACKET_5_0_2_1_sem,
        ↓fast_pow.pow_L_2TAG_PACKET_8_0_2_2_sem, ↓fast_pow.pow_L_2TAG_PACKET_8_0_2_1_sem,
        ↓fast_pow.pow_L_2TAG_PACKET_0_0_2_3_sem, ↓fast_pow.pow_L_2TAG_PACKET_0_0_2_2_sem,
        ↓fast_pow.pow_L_2TAG_PACKET_0_0_2_1_sem, ↓fast_pow.pow_B1_2_1_sem,
        ↓fast_pow.pow_start_1_sem, ↓fast_pow.pow_entry_1_sem, ↓Machine.get_setx,
        ↓Machine.get_setg, ↓Machine.get_setstk, ↓Machine.get_enter, ↓Machine.get_setFlags,
        ↓Machine.trace_set, ↓Machine.get_ite, ↓Machine.trace_ite, ↓Machine.obs_eq_get,
        ↓Machine.flags_get, ↓Machine.flags_trace, ↓sem_get_1, ↓sem_get_2, ↓sem_get_3,
        ↓sem_get_4, ↓sem_trace_1, ↓sem_trace_2, ↓sem_trace_3, ↓sem_trace_4, ↓load_const,
        cc_iff, ea, and_imm, and_imm_left, ilog2_lit, or_eq_zero, or_mod32, or_lt_2p31,
        Nat.mod_mod, Nat.zero_or, Nat.or_zero, Nat.sub_zero, Nat.add_mod_right, lane_eq,
        Machine.io_eq_get, Nat.xor_self, Loc.x.injEq, Loc.g.injEq, Loc.m.injEq,
        Bool.toNat_eq_zero, Bool.toNat_eq_one, Nat.reducePow, Nat.reduceMul,
        Nat.reduceMod, Nat.reduceAdd, Nat.reduceSub, Nat.reduceDiv, Nat.reduceEqDiff,
        Nat.reduceLTLE, Nat.reduceLeDiff, Nat.reduceLT, Nat.reduceGT, Nat.reduceOr,
        Nat.reduceXor, reduceCtorEq, Bool.not_eq_true', Bool.not_eq_true,
        decide_eq_true_eq, decide_eq_false_iff_not, Bool.and_eq_true, Bool.or_eq_true,
        bne_iff_ne, beq_iff_eq, ne_eq, Bool.not_eq_false', Bool.not_eq_false, decide_not,
        not_not, Bool.decide_eq_true, Bool.false_eq_true, Bool.true_eq_false,
        not_false_eq_true, not_true_eq_false, and_true, true_and, and_false, false_and,
        or_true, true_or, or_false, false_or, not_true, not_false_iff, iff_self, true_iff,
        iff_true, false_iff, iff_false, ite_self, decide_eq_decide, decide_False,
        decide_True, Bool.not_true, Bool.not_false]
    all_goals omega
  · set_option maxRecDepth 8000 in
    simp only [
        ↓reduceIte, hF, ↓fast_pow.pow_L_2TAG_PACKET_8_0_2_2_sem,
        ↓fast_pow.pow_L_2TAG_PACKET_8_0_2_1_sem, ↓fast_pow.pow_L_2TAG_PACKET_0_0_2_3_sem,
        ↓fast_pow.pow_L_2TAG_PACKET_0_0_2_2_sem, ↓fast_pow.pow_L_2TAG_PACKET_0_0_2_1_sem,
        ↓fast_pow.pow_B1_2_1_sem, ↓fast_pow.pow_start_1_sem, ↓fast_pow.pow_entry_1_sem,
        ↓Machine.get_setx, ↓Machine.get_setg, ↓Machine.get_setstk, ↓Machine.get_enter,
        ↓Machine.get_setFlags, ↓Machine.trace_set, ↓Machine.get_ite, ↓Machine.trace_ite,
        ↓Machine.obs_eq_get, ↓Machine.flags_get, ↓Machine.flags_trace, ↓sem_get_1,
        ↓sem_get_2, ↓sem_get_3, ↓sem_get_4, ↓sem_trace_1, ↓sem_trace_2, ↓sem_trace_3,
        ↓sem_trace_4, ↓load_const, cc_iff, ea, and_imm, and_imm_left, ilog2_lit,
        or_eq_zero, or_mod32, or_lt_2p31, Nat.mod_mod, Nat.zero_or, Nat.or_zero,
        Nat.sub_zero, Nat.add_mod_right, lane_eq, Machine.io_eq_get, Nat.xor_self,
        Loc.x.injEq, Loc.g.injEq, Loc.m.injEq, Bool.toNat_eq_zero, Bool.toNat_eq_one,
        Nat.reducePow, Nat.reduceMul, Nat.reduceMod, Nat.reduceAdd, Nat.reduceSub,
        Nat.reduceDiv, Nat.reduceEqDiff, Nat.reduceLTLE, Nat.reduceLeDiff, Nat.reduceLT,
        Nat.reduceGT, Nat.reduceOr, Nat.reduceXor, reduceCtorEq, Bool.not_eq_true',
        Bool.not_eq_true, decide_eq_true_eq, decide_eq_false_iff_not, Bool.and_eq_true,
        Bool.or_eq_true, bne_iff_ne, beq_iff_eq, ne_eq, Bool.not_eq_false',
        Bool.not_eq_false, decide_not, not_not, Bool.decide_eq_true, Bool.false_eq_true,
        Bool.true_eq_false, not_false_eq_true, not_true_eq_false, and_true, true_and,
        and_false, false_and, or_true, true_or, or_false, false_or, not_true,
        not_false_iff, iff_self, true_iff, iff_true, false_iff, iff_false, ite_self,
        decide_eq_decide, decide_False, decide_True, Bool.not_true, Bool.not_false]
    all_goals omega
  · set_option maxRecDepth 8000 in
    simp only [
        ↓reduceIte, hF, ↓fast_pow.pow_L_2TAG_PACKET_8_0_2_1_sem,
        ↓fast_pow.pow_L_2TAG_PACKET_0_0_2_3_sem, ↓fast_pow.pow_L_2TAG_PACKET_0_0_2_2_sem,
        ↓fast_pow.pow_L_2TAG_PACKET_0_0_2_1_sem, ↓fast_pow.pow_B1_2_1_sem,
        ↓fast_pow.pow_start_1_sem, ↓fast_pow.pow_entry_1_sem, ↓Machine.get_setx,
        ↓Machine.get_setg, ↓Machine.get_setstk, ↓Machine.get_enter, ↓Machine.get_setFlags,
        ↓Machine.trace_set, ↓Machine.get_ite, ↓Machine.trace_ite, ↓Machine.obs_eq_get,
        ↓Machine.flags_get, ↓Machine.flags_trace, ↓sem_get_1, ↓sem_get_2, ↓sem_get_3,
        ↓sem_get_4, ↓sem_trace_1, ↓sem_trace_2, ↓sem_trace_3, ↓sem_trace_4, ↓load_const,
        cc_iff, ea, and_imm, and_imm_left, ilog2_lit, or_eq_zero, or_mod32, or_lt_2p31,
        Nat.mod_mod, Nat.zero_or, Nat.or_zero, Nat.sub_zero, Nat.add_mod_right, lane_eq,
        Machine.io_eq_get, Nat.xor_self, Loc.x.injEq, Loc.g.injEq, Loc.m.injEq,
        Bool.toNat_eq_zero, Bool.toNat_eq_one, Nat.reducePow, Nat.reduceMul,
        Nat.reduceMod, Nat.reduceAdd, Nat.reduceSub, Nat.reduceDiv, Nat.reduceEqDiff,
        Nat.reduceLTLE, Nat.reduceLeDiff, Nat.reduceLT, Nat.reduceGT, Nat.reduceOr,
        Nat.reduceXor, reduceCtorEq, Bool.not_eq_true', Bool.not_eq_true,
        decide_eq_true_eq, decide_eq_false_iff_not, Bool.and_eq_true, Bool.or_eq_true,
        bne_iff_ne, beq_iff_eq, ne_eq, Bool.not_eq_false', Bool.not_eq_false, decide_not,
        not_not, Bool.decide_eq_true, Bool.false_eq_true, Bool.true_eq_false,
        not_false_eq_true, not_true_eq_false, and_true, true_and, and_false, false_and,
        or_true, true_or, or_false, false_or, not_true, not_false_iff, iff_self, true_iff,
        iff_true, false_iff, iff_false, ite_self, decide_eq_decide, decide_False,
        decide_True, Bool.not_true, Bool.not_false]
    all_goals omega
  · set_option maxRecDepth 8000 in
    simp only [
        ↓reduceIte, hF, ↓fast_pow.pow_L_2TAG_PACKET_0_0_2_2_sem,
        ↓fast_pow.pow_L_2TAG_PACKET_0_0_2_1_sem, ↓fast_pow.pow_B1_2_1_sem,
        ↓fast_pow.pow_start_1_sem, ↓fast_pow.pow_entry_1_sem, ↓Machine.get_setx,
        ↓Machine.get_setg, ↓Machine.get_setstk, ↓Machine.get_enter, ↓Machine.get_setFlags,
        ↓Machine.trace_set, ↓Machine.get_ite, ↓Machine.trace_ite, ↓Machine.obs_eq_get,
        ↓Machine.flags_get, ↓Machine.flags_trace, ↓sem_get_1, ↓sem_get_2, ↓sem_get_3,
        ↓sem_get_4, ↓sem_trace_1, ↓sem_trace_2, ↓sem_trace_3, ↓sem_trace_4, ↓load_const,
        cc_iff, ea, and_imm, and_imm_left, ilog2_lit, or_eq_zero, or_mod32, or_lt_2p31,
        Nat.mod_mod, Nat.zero_or, Nat.or_zero, Nat.sub_zero, Nat.add_mod_right, lane_eq,
        Machine.io_eq_get, Nat.xor_self, Loc.x.injEq, Loc.g.injEq, Loc.m.injEq,
        Bool.toNat_eq_zero, Bool.toNat_eq_one, Nat.reducePow, Nat.reduceMul,
        Nat.reduceMod, Nat.reduceAdd, Nat.reduceSub, Nat.reduceDiv, Nat.reduceEqDiff,
        Nat.reduceLTLE, Nat.reduceLeDiff, Nat.reduceLT, Nat.reduceGT, Nat.reduceOr,
        Nat.reduceXor, reduceCtorEq, Bool.not_eq_true', Bool.not_eq_true,
        decide_eq_true_eq, decide_eq_false_iff_not, Bool.and_eq_true, Bool.or_eq_true,
        bne_iff_ne, beq_iff_eq, ne_eq, Bool.not_eq_false', Bool.not_eq_false, decide_not,
        not_not, Bool.decide_eq_true, Bool.false_eq_true, Bool.true_eq_false,
        not_false_eq_true, not_true_eq_false, and_true, true_and, and_false, false_and,
        or_true, true_or, or_false, false_or, not_true, not_false_iff, iff_self, true_iff,
        iff_true, false_iff, iff_false, ite_self, decide_eq_decide, decide_False,
        decide_True, Bool.not_true, Bool.not_false]
    all_goals omega
  · set_option maxRecDepth 8000 in
    simp only [
        ↓reduceIte, hF, ↓fast_pow.pow_L_2TAG_PACKET_0_0_2_1_sem, ↓fast_pow.pow_B1_2_1_sem,
        ↓fast_pow.pow_start_1_sem, ↓fast_pow.pow_entry_1_sem, ↓Machine.get_setx,
        ↓Machine.get_setg, ↓Machine.get_setstk, ↓Machine.get_enter, ↓Machine.get_setFlags,
        ↓Machine.trace_set, ↓Machine.get_ite, ↓Machine.trace_ite, ↓Machine.obs_eq_get,
        ↓Machine.flags_get, ↓Machine.flags_trace, ↓sem_get_1, ↓sem_get_2, ↓sem_get_3,
        ↓sem_get_4, ↓sem_trace_1, ↓sem_trace_2, ↓sem_trace_3, ↓sem_trace_4, ↓load_const,
        cc_iff, ea, and_imm, and_imm_left, ilog2_lit, or_eq_zero, or_mod32, or_lt_2p31,
        Nat.mod_mod, Nat.zero_or, Nat.or_zero, Nat.sub_zero, Nat.add_mod_right, lane_eq,
        Machine.io_eq_get, Nat.xor_self, Loc.x.injEq, Loc.g.injEq, Loc.m.injEq,
        Bool.toNat_eq_zero, Bool.toNat_eq_one, Nat.reducePow, Nat.reduceMul,
        Nat.reduceMod, Nat.reduceAdd, Nat.reduceSub, Nat.reduceDiv, Nat.reduceEqDiff,
        Nat.reduceLTLE, Nat.reduceLeDiff, Nat.reduceLT, Nat.reduceGT, Nat.reduceOr,
        Nat.reduceXor, reduceCtorEq, Bool.not_eq_true', Bool.not_eq_true,
        decide_eq_true_eq, decide_eq_false_iff_not, Bool.and_eq_true, Bool.or_eq_true,
        bne_iff_ne, beq_iff_eq, ne_eq, Bool.not_eq_false', Bool.not_eq_false, decide_not,
        not_not, Bool.decide_eq_true, Bool.false_eq_true, Bool.true_eq_false,
        not_false_eq_true, not_true_eq_false, and_true, true_and, and_false, false_and,
        or_true, true_or, or_false, false_or, not_true, not_false_iff, iff_self, true_iff,
        iff_true, false_iff, iff_false, ite_self, decide_eq_decide, decide_False,
        decide_True, Bool.not_true, Bool.not_false]
    all_goals omega
  · set_option maxRecDepth 8000 in
    simp only [
        ↓reduceIte, hF, ↓fast_pow.pow_B1_2_1_sem, ↓fast_pow.pow_start_1_sem,
        ↓fast_pow.pow_entry_1_sem, ↓Machine.get_setx, ↓Machine.get_setg,
        ↓Machine.get_setstk, ↓Machine.get_enter, ↓Machine.get_setFlags,
        ↓Machine.trace_set, ↓Machine.get_ite, ↓Machine.trace_ite, ↓Machine.obs_eq_get,
        ↓Machine.flags_get, ↓Machine.flags_trace, ↓sem_get_1, ↓sem_get_2, ↓sem_get_3,
        ↓sem_get_4, ↓sem_trace_1, ↓sem_trace_2, ↓sem_trace_3, ↓sem_trace_4, ↓load_const,
        cc_iff, ea, and_imm, and_imm_left, ilog2_lit, or_eq_zero, or_mod32, or_lt_2p31,
        Nat.mod_mod, Nat.zero_or, Nat.or_zero, Nat.sub_zero, Nat.add_mod_right, lane_eq,
        Machine.io_eq_get, Nat.xor_self, Loc.x.injEq, Loc.g.injEq, Loc.m.injEq,
        Bool.toNat_eq_zero, Bool.toNat_eq_one, Nat.reducePow, Nat.reduceMul,
        Nat.reduceMod, Nat.reduceAdd, Nat.reduceSub, Nat.reduceDiv, Nat.reduceEqDiff,
        Nat.reduceLTLE, Nat.reduceLeDiff, Nat.reduceLT, Nat.reduceGT, Nat.reduceOr,
        Nat.reduceXor, reduceCtorEq, Bool.not_eq_true', Bool.not_eq_true,
        decide_eq_true_eq, decide_eq_false_iff_not, Bool.and_eq_true, Bool.or_eq_true,
        bne_iff_ne, beq_iff_eq, ne_eq, Bool.not_eq_false', Bool.not_eq_false, decide_not,
        not_not, Bool.decide_eq_true, Bool.false_eq_true, Bool.true_eq_false,
        not_false_eq_true, not_true_eq_false, and_true, true_and, and_false, false_and,
        or_true, true_or, or_false, false_or, not_true, not_false_iff, iff_self, true_iff,
        iff_true, false_iff, iff_false, ite_self, decide_eq_decide, decide_False,
        decide_True, Bool.not_true, Bool.not_false]
    all_goals omega

/-- C1: for every input pattern `x` and `y = ±0`, `fast_pow(x, y)` returns exactly `1.0`. -/
theorem fast_pow_zero_exponent (cpu : Cpu) (s : Machine)
    (hy : s.arg1 = 0 ∨ s.arg1 = 0x8000000000000000) :
    (fast_pow cpu s).result = 0x3FF0000000000000 := by
  have hlt := arg0_lt s
  rcases Nat.lt_or_ge s.arg0 0x8000000000000000 with hs | hs
  · rcases Nat.eq_zero_or_pos s.arg0 with h0 | h0
    · exact fast_pow_zero_pzero_run cpu s h0 hy
    rcases Nat.lt_or_ge (s.arg0 / 2 ^ 48) 16 with ha | ha
    · exact fast_pow_zero_denormal_run cpu s h0 ha hy
    rcases Nat.lt_or_ge (s.arg0 / 2 ^ 48) 32752 with hb | hb
    · by_cases hc : s.arg0 / 2 ^ 48 = 16367 ∨ s.arg0 / 2 ^ 48 = 16368
      · exact fast_pow_zero_near_one_run cpu s hc hy
      · exact fast_pow_zero_normal_run cpu s ha hb (fun h => hc (Or.inl h))
          (fun h => hc (Or.inr h)) hy
    · rcases Nat.eq_or_lt_of_le (show 0x7FF0000000000000 ≤ s.arg0 by omega) with he | he
      · exact fast_pow_zero_inf_run cpu s (Or.inl he.symm) hy
      · refine fast_pow_zero_nan_run cpu s ?_ hy
        simp only [f64IsNaN, f64Exp, f64Man, decide_eq_true_eq, Nat.reducePow]
        omega
  · rcases Nat.eq_or_lt_of_le hs with he | he
    · exact fast_pow_zero_nzero_run cpu s he.symm hy
    rcases Nat.lt_or_ge s.arg0 0xFFF0000000000000 with hb | hb
    · exact fast_pow_zero_neg_run cpu s he hb hy
    rcases Nat.eq_or_lt_of_le hb with hf | hf
    · exact fast_pow_zero_inf_run cpu s (Or.inr hf.symm) hy
    · refine fast_pow_zero_nan_run cpu s ?_ hy
      simp only [f64IsNaN, f64Exp, f64Man, decide_eq_true_eq, Nat.reducePow]
      omega

theorem fast_pow_zero_exponent_witness :
    ((Machine.init 0xC000000000000000 0x8000000000000000).arg1 = 0 ∨
      (Machine.init 0xC000000000000000 0x8000000000000000).arg1 = 0x8000000000000000) ∧
    (fast_pow Cpu.sample (Machine.init 0xC000000000000000 0x8000000000000000)).result =
      0x3FF0000000000000 :=
  ⟨by decide, fast_pow_zero_exponent Cpu.sample
    (Machine.init 0xC000000000000000 0x8000000000000000) (by decide)⟩

end MacroAssembler

namespace MacroAssembler
open XReg GReg Machine

/-! ### `fast_pow` of a negative base and a non-integer exponent -/

/-- C2: for every finite base `x < 0` other than `-0` (negative subnormal numbers included)
and every finite exponent `y` that is not an integer, `fast_pow` returns a NaN, namely the
default NaN `0xFFF8000000000000` produced by `0 * Inf` in `L_2TAG_PACKET_34_0_2`. -/
theorem fast_pow_negative_base_fraction (cpu : Cpu) (s : Machine)
    (hx1 : 0x8000000000000000 < s.arg0) (hx2 : s.arg0 < 0xFFF0000000000000)
    (hyf : f64Exp s.arg1 < 2047) (hy : f64IsInteger s.arg1 = false) :
    f64IsNaN (fast_pow cpu s).result = true ∧
    (fast_pow cpu s).result = 0xFFF8000000000000 := by
  obtain ⟨t, e0, m8, m16, -⟩ := pow_neg_to_L7 cpu s hx1 hx2
  have hlt := arg1_lt s
  have hm : t.get (.m 16) % 18446744073709551616 = s.arg1 := by
    rw [m16]
    exact Nat.mod_eq_of_lt hlt
  have hz : s.arg1 % 9223372036854775808 ≠ 0 := by
    intro h0
    have hz : f64IsZero s.arg1 = true := by
      simp only [f64IsZero, f64Exp, f64Man, Nat.reducePow, decide_eq_true_eq]
      omega
    simp only [f64IsInteger, hz, true_or, decide_True] at hy
    exact absurd hy (by decide)
  obtain ⟨u, p, -, -, -, hc⟩ := pow_L7_cases cpu t (by rw [m8]; omega) (by rw [m16]; exact hz)
    (by rw [hm]; exact hyf)
  rw [hm] at hc
  have key : (fast_pow cpu s).result = 0xFFF8000000000000 := by
    rcases hc with ⟨-, e⟩ | ⟨ho, -⟩ | ⟨hi, -, -⟩
    · rw [e0, e]
      exact (pow_L34_run cpu u).1
    · rw [isOdd_isInteger _ ho] at hy
      exact absurd hy (by decide)
    · rw [hi] at hy
      exact absurd hy (by decide)
  rw [key]
  exact ⟨by decide, rfl⟩

set_option maxRecDepth 100000 in
theorem fast_pow_negative_base_fraction_witness :
    (0x8000000000000000 < (Machine.init 0xC020000000000000 0x3FD5555555555555).arg0 ∧
      (Machine.init 0xC020000000000000 0x3FD5555555555555).arg0 < 0xFFF0000000000000 ∧
      f64Exp (Machine.init 0xC020000000000000 0x3FD5555555555555).arg1 < 2047 ∧
      f64IsInteger (Machine.init 0xC020000000000000 0x3FD5555555555555).arg1 = false) ∧
    f64IsNaN (fast_pow Cpu.sample
      (Machine.init 0xC020000000000000 0x3FD5555555555555)).result = true ∧
    (fast_pow Cpu.sample (Machine.init 0xC020000000000000 0x3FD5555555555555)).result =
      0xFFF8000000000000 :=
  ⟨by decide!,
    fast_pow_negative_base_fraction Cpu.sample
      (Machine.init 0xC020000000000000 0x3FD5555555555555)
      (by decide!) (by decide!) (by decide!) (by decide!)⟩

end MacroAssembler

namespace MacroAssembler
open XReg GReg Machine

/-! ### `fast_pow(-0, y)` for an odd integer `y` with `2^51 ≤ y < 2^52` -/

theorem fast_pow_nzero_odd_run (cpu : Cpu) (s : Machine) (hx : s.arg0 = 0x8000000000000000)
    (hy : s.arg1 = 0x4320000000000002) :
    (fast_pow cpu s).result = 0 := by
  simp only [Machine.io_eq_get, Nat.reducePow] at hx hy
  rw [
      fast_pow, fast_pow.pow_entry_eq, fast_pow.pow_start_eq, fast_pow.pow_B1_2_eq, if_pos,
      fast_pow.pow_L_2TAG_PACKET_0_0_2_eq, if_neg, if_pos,
      fast_pow.pow_L_2TAG_PACKET_7_0_2_eq, if_pos, fast_pow.pow_L_2TAG_PACKET_9_0_2_eq,
      if_pos, fast_pow.pow_L_2TAG_PACKET_40_0_2_eq, if_neg, if_neg, if_neg, if_neg, if_pos,
      fast_pow.pow_L_2TAG_PACKET_41_0_2_eq, if_pos, fast_pow.pow_L_2TAG_PACKET_22_0_2_eq,
      fast_pow.pow_B1_5_eq]
  · set_option maxRecDepth 8000 in
    simp only [
        ↓reduceIte, hx, hy, f64Add_magic_odd, f64Sub_magic_odd, f64Add_odd_rest,
        ↓fast_pow.pow_B1_5_1_sem, ↓fast_pow.pow_L_2TAG_PACKET_22_0_2_1_sem,
        ↓fast_pow.pow_L_2TAG_PACKET_41_0_2_1_sem,
        ↓fast_pow.pow_L_2TAG_PACKET_40_0_2_5_sem,
        ↓fast_pow.pow_L_2TAG_PACKET_40_0_2_4_sem,
        ↓fast_pow.pow_L_2TAG_PACKET_40_0_2_3_sem,
        ↓fast_pow.pow_L_2TAG_PACKET_40_0_2_2_sem,
        ↓fast_pow.pow_L_2TAG_PACKET_40_0_2_1_sem, ↓fast_pow.pow_L_2TAG_PACKET_9_0_2_1_sem,
        ↓fast_pow.pow_L_2TAG_PACKET_7_0_2_1_sem, ↓fast_pow.pow_L_2TAG_PACKET_0_0_2_2_sem,
        ↓fast_pow.pow_L_2TAG_PACKET_0_0_2_1_sem, ↓fast_pow.pow_B1_2_1_sem,
        ↓fast_pow.pow_start_1_sem, ↓fast_pow.pow_entry_1_sem, ↓Machine.get_setx,
        ↓Machine.get_setg, ↓Machine.get_setstk, ↓Machine.get_enter, ↓Machine.get_setFlags,
        ↓Machine.trace_set, ↓Machine.get_ite, ↓Machine.trace_ite, ↓Machine.obs_eq_get,
        ↓Machine.flags_get, ↓Machine.flags_trace, ↓sem_get_1, ↓sem_get_2, ↓sem_get_3,
        ↓sem_get_4, ↓sem_trace_1, ↓sem_trace_2, ↓sem_trace_3, ↓sem_trace_4, ↓load_const,
        cc_iff, ea, and_imm, and_imm_left, ilog2_lit, or_eq_zero, or_mod32, or_lt_2p31,
        Nat.mod_mod, Nat.zero_or, Nat.or_zero, Nat.sub_zero, Nat.add_mod_right, lane_eq,
        Machine.io_eq_get, Nat.xor_self, Loc.x.injEq, Loc.g.injEq, Loc.m.injEq,
        Bool.toNat_eq_zero, Bool.toNat_eq_one, Nat.reducePow, Nat.reduceMul,
        Nat.reduceMod, Nat.reduceAdd, Nat.reduceSub, Nat.reduceDiv, Nat.reduceEqDiff,
        Nat.reduceLTLE, Nat.reduceLeDiff, Nat.reduceLT, Nat.reduceGT, Nat.reduceOr,
        Nat.reduceXor, reduceCtorEq, Bool.not_eq_true', Bool.not_eq_true,
        decide_eq_true_eq, decide_eq_false_iff_not, Bool.and_eq_true, Bool.or_eq_true,
        bne_iff_ne, beq_iff_eq, ne_eq, Bool.not_eq_false', Bool.not_eq_false, decide_not,
        not_not, Bool.decide_eq_true, Bool.false_eq_true, Bool.true_eq_false,
        not_false_eq_true, not_true_eq_false, and_true, true_and, and_false, false_and,
        or_true, true_or, or_false, false_or, not_true, not_false_iff, iff_self, true_iff,
        iff_true, false_iff, iff_false, ite_self, decide_eq_decide, decide_False,
        decide_True, Bool.not_true, Bool.not_false]
  · set_option maxRecDepth 8000 in
    simp only [
        ↓reduceIte, hx, hy, f64Add_magic_odd, f64Sub_magic_odd, f64Add_odd_rest,
        ↓fast_pow.pow_L_2TAG_PACKET_41_0_2_1_sem,
        ↓fast_pow.pow_L_2TAG_PACKET_40_0_2_5_sem,
        ↓fast_pow.pow_L_2TAG_PACKET_40_0_2_4_sem,
        ↓fast_pow.pow_L_2TAG_PACKET_40_0_2_3_sem,
        ↓fast_pow.pow_L_2TAG_PACKET_40_0_2_2_sem,
        ↓fast_pow.pow_L_2TAG_PACKET_40_0_2_1_sem, ↓fast_pow.pow_L_2TAG_PACKET_9_0_2_1_sem,
        ↓fast_pow.pow_L_2TAG_PACKET_7_0_2_1_sem, ↓fast_pow.pow_L_2TAG_PACKET_0_0_2_2_sem,
        ↓fast_pow.pow_L_2TAG_PACKET_0_0_2_1_sem, ↓fast_pow.pow_B1_2_1_sem,
        ↓fast_pow.pow_start_1_sem, ↓fast_pow.pow_entry_1_sem, ↓Machine.get_setx,
        ↓Machine.get_setg, ↓Machine.get_setstk, ↓Machine.get_enter, ↓Machine.get_setFlags,
        ↓Machine.trace_set, ↓Machine.get_ite, ↓Machine.trace_ite, ↓Machine.obs_eq_get,
        ↓Machine.flags_get, ↓Machine.flags_trace, ↓sem_get_1, ↓sem_get_2, ↓sem_get_3,
        ↓sem_get_4, ↓sem_trace_1, ↓sem_trace_2, ↓sem_trace_3, ↓sem_trace_4, ↓load_const,
        cc_iff, ea, and_imm, and_imm_left, ilog2_lit, or_eq_zero, or_mod32, or_lt_2p31,
        Nat.mod_mod, Nat.zero_or, Nat.or_zero, Nat.sub_zero, Nat.add_mod_right, lane_eq,
        Machine.io_eq_get, Nat.xor_self, Loc.x.injEq, Loc.g.injEq, Loc.m.injEq,
        Bool.toNat_eq_zero, Bool.toNat_eq_one, Nat.reducePow, Nat.reduceMul,
        Nat.reduceMod, Nat.reduceAdd, Nat.reduceSub, Nat.reduceDiv, Nat.reduceEqDiff,
        Nat.reduceLTLE, Nat.reduceLeDiff, Nat.reduceLT, Nat.reduceGT, Nat.reduceOr,
        Nat.reduceXor, reduceCtorEq, Bool.not_eq_true', Bool.not_eq_true,
        decide_eq_true_eq, decide_eq_false_iff_not, Bool.and_eq_true, Bool.or_eq_true,
        bne_iff_ne, beq_iff_eq, ne_eq, Bool.not_eq_false', Bool.not_eq_false, decide_not,
        not_not, Bool.decide_eq_true, Bool.false_eq_true, Bool.true_eq_false,
        not_false_eq_true, not_true_eq_false, and_true, true_and, and_false, false_and,
        or_true, true_or, or_false, false_or, not_true, not_false_iff, iff_self, true_iff,
        iff_true, false_iff, iff_false, ite_self, decide_eq_decide, decide_False,
        decide_True, Bool.not_true, Bool.not_false]
    all_goals omega
  · set_option maxRecDepth 8000 in
    simp only [
        ↓reduceIte, hx, hy, f64Add_magic_odd, f64Sub_magic_odd, f64Add_odd_rest,
        ↓fast_pow.pow_L_2TAG_PACKET_40_0_2_5_sem,
        ↓fast_pow.pow_L_2TAG_PACKET_40_0_2_4_sem,
        ↓fast_pow.pow_L_2TAG_PACKET_40_0_2_3_sem,
        ↓fast_pow.pow_L_2TAG_PACKET_40_0_2_2_sem,
        ↓fast_pow.pow_L_2TAG_PACKET_40_0_2_1_sem, ↓fast_pow.pow_L_2TAG_PACKET_9_0_2_1_sem,
        ↓fast_pow.pow_L_2TAG_PACKET_7_0_2_1_sem, ↓fast_pow.pow_L_2TAG_PACKET_0_0_2_2_sem,
        ↓fast_pow.pow_L_2TAG_PACKET_0_0_2_1_sem, ↓fast_pow.pow_B1_2_1_sem,
        ↓fast_pow.pow_start_1_sem, ↓fast_pow.pow_entry_1_sem, ↓Machine.get_setx,
        ↓Machine.get_setg, ↓Machine.get_setstk, ↓Machine.get_enter, ↓Machine.get_setFlags,
        ↓Machine.trace_set, ↓Machine.get_ite, ↓Machine.trace_ite, ↓Machine.obs_eq_get,
        ↓Machine.flags_get, ↓Machine.flags_trace, ↓sem_get_1, ↓sem_get_2, ↓sem_get_3,
        ↓sem_get_4, ↓sem_trace_1, ↓sem_trace_2, ↓sem_trace_3, ↓sem_trace_4, ↓load_const,
        cc_iff, ea, and_imm, and_imm_left, ilog2_lit, or_eq_zero, or_mod32, or_lt_2p31,
        Nat.mod_mod, Nat.zero_or, Nat.or_zero, Nat.sub_zero, Nat.add_mod_right, lane_eq,
        Machine.io_eq_get, Nat.xor_self, Loc.x.injEq, Loc.g.injEq, Loc.m.injEq,
        Bool.toNat_eq_zero, Bool.toNat_eq_one, Nat.reducePow, Nat.reduceMul,
        Nat.reduceMod, Nat.reduceAdd, Nat.reduceSub, Nat.reduceDiv, Nat.reduceEqDiff,
        Nat.reduceLTLE, Nat.reduceLeDiff, Nat.reduceLT, Nat.reduceGT, Nat.reduceOr,
        Nat.reduceXor, reduceCtorEq, Bool.not_eq_true', Bool.not_eq_true,
        decide_eq_true_eq, decide_eq_false_iff_not, Bool.and_eq_true, Bool.or_eq_true,
        bne_iff_ne, beq_iff_eq, ne_eq, Bool.not_eq_false', Bool.not_eq_false, decide_not,
        not_not, Bool.decide_eq_true, Bool.false_eq_true, Bool.true_eq_false,
        not_false_eq_true, not_true_eq_false, and_true, true_and, and_false, false_and,
        or_true, true_or, or_false, false_or, not_true, not_false_iff, iff_self, true_iff,
        iff_true, false_iff, iff_false, ite_self, decide_eq_decide, decide_False,
        decide_True, Bool.not_true, Bool.not_false]
    all_goals omega
  · set_option maxRecDepth 8000 in
    simp only [
        ↓reduceIte, hx, hy, f64Add_magic_odd, f64Sub_magic_odd, f64Add_odd_rest,
        ↓fast_pow.pow_L_2TAG_PACKET_40_0_2_4_sem,
        ↓fast_pow.pow_L_2TAG_PACKET_40_0_2_3_sem,
        ↓fast_pow.pow_L_2TAG_PACKET_40_0_2_2_sem,
        ↓fast_pow.pow_L_2TAG_PACKET_40_0_2_1_sem, ↓fast_pow.pow_L_2TAG_PACKET_9_0_2_1_sem,
        ↓fast_pow.pow_L_2TAG_PACKET_7_0_2_1_sem, ↓fast_pow.pow_L_2TAG_PACKET_0_0_2_2_sem,
        ↓fast_pow.pow_L_2TAG_PACKET_0_0_2_1_sem, ↓fast_pow.pow_B1_2_1_sem,
        ↓fast_pow.pow_start_1_sem, ↓fast_pow.pow_entry_1_sem, ↓Machine.get_setx,
        ↓Machine.get_setg, ↓Machine.get_setstk, ↓Machine.get_enter, ↓Machine.get_setFlags,
        ↓Machine.trace_set, ↓Machine.get_ite, ↓Machine.trace_ite, ↓Machine.obs_eq_get,
        ↓Machine.flags_get, ↓Machine.flags_trace, ↓sem_get_1, ↓sem_get_2, ↓sem_get_3,
        ↓sem_get_4, ↓sem_trace_1, ↓sem_trace_2, ↓sem_trace_3, ↓sem_trace_4, ↓load_const,
        cc_iff, ea, and_imm, and_imm_left, ilog2_lit, or_eq_zero, or_mod32, or_lt_2p31,
        Nat.mod_mod, Nat.zero_or, Nat.or_zero, Nat.sub_zero, Nat.add_mod_right, lane_eq,
        Machine.io_eq_get, Nat.xor_self, Loc.x.injEq, Loc.g.injEq, Loc.m.injEq,
        Bool.toNat_eq_zero, Bool.toNat_eq_one, Nat.reducePow, Nat.reduceMul,
        Nat.reduceMod, Nat.reduceAdd, Nat.reduceSub, Nat.reduceDiv, Nat.reduceEqDiff,
        Nat.reduceLTLE, Nat.reduceLeDiff, Nat.reduceLT, Nat.reduceGT, Nat.reduceOr,
        Nat.reduceXor, reduceCtorEq, Bool.not_eq_true', Bool.not_eq_true,
        decide_eq_true_eq, decide_eq_false_iff_not, Bool.and_eq_true, Bool.or_eq_true,
        bne_iff_ne, beq_iff_eq, ne_eq, Bool.not_eq_false', Bool.not_eq_false, decide_not,
        not_not, Bool.decide_eq_true, Bool.false_eq_true, Bool.true_eq_false,
        not_false_eq_true, not_true_eq_false, and_true, true_and, and_false, false_and,
        or_true, true_or, or_false, false_or, not_true, not_false_iff, iff_self, true_iff,
        iff_true, false_iff, iff_false, ite_self, decide_eq_decide, decide_False,
        decide_True, Bool.not_true, Bool.not_false]
    all_goals omega
  · set_option maxRecDepth 8000 in
    simp only [
        ↓reduceIte, hx, hy, f64Add_magic_odd, f64Sub_magic_odd, f64Add_odd_rest,
        ↓fast_pow.pow_L_2TAG_PACKET_40_0_2_3_sem,
        ↓fast_pow.pow_L_2TAG_PACKET_40_0_2_2_sem,
        ↓fast_pow.pow_L_2TAG_PACKET_40_0_2_1_sem, ↓fast_pow.pow_L_2TAG_PACKET_9_0_2_1_sem,
        ↓fast_pow.pow_L_2TAG_PACKET_7_0_2_1_sem, ↓fast_pow.pow_L_2TAG_PACKET_0_0_2_2_sem,
        ↓fast_pow.pow_L_2TAG_PACKET_0_0_2_1_sem, ↓fast_pow.pow_B1_2_1_sem,
        ↓fast_pow.pow_start_1_sem, ↓fast_pow.pow_entry_1_sem, ↓Machine.get_setx,
        ↓Machine.get_setg, ↓Machine.get_setstk, ↓Machine.get_enter, ↓Machine.get_setFlags,
        ↓Machine.trace_set, ↓Machine.get_ite, ↓Machine.trace_ite, ↓Machine.obs_eq_get,
        ↓Machine.flags_get, ↓Machine.flags_trace, ↓sem_get_1, ↓sem_get_2, ↓sem_get_3,
        ↓sem_get_4, ↓sem_trace_1, ↓sem_trace_2, ↓sem_trace_3, ↓sem_trace_4, ↓load_const,
        cc_iff, ea, and_imm, and_imm_left, ilog2_lit, or_eq_zero, or_mod32, or_lt_2p31,
        Nat.mod_mod, Nat.zero_or, Nat.or_zero, Nat.sub_zero, Nat.add_mod_right, lane_eq,
        Machine.io_eq_get, Nat.xor_self, Loc.x.injEq, Loc.g.injEq, Loc.m.injEq,
        Bool.toNat_eq_zero, Bool.toNat_eq_one, Nat.reducePow, Nat.reduceMul,
        Nat.reduceMod, Nat.reduceAdd, Nat.reduceSub, Nat.reduceDiv, Nat.reduceEqDiff,
        Nat.reduceLTLE, Nat.reduceLeDiff, Nat.reduceLT, Nat.reduceGT, Nat.reduceOr,
        Nat.reduceXor, reduceCtorEq, Bool.not_eq_true', Bool.not_eq_true,
        decide_eq_true_eq, decide_eq_false_iff_not, Bool.and_eq_true, Bool.or_eq_true,
        bne_iff_ne, beq_iff_eq, ne_eq, Bool.not_eq_false', Bool.not_eq_false, decide_not,
        not_not, Bool.decide_eq_true, Bool.false_eq_true, Bool.true_eq_false,
        not_false_eq_true, not_true_eq_false, and_true, true_and, and_false, false_and,
        or_true, true_or, or_false, false_or, not_true, not_false_iff, iff_self, true_iff,
        iff_true, false_iff, iff_false, ite_self, decide_eq_decide, decide_False,
        decide_True, Bool.not_true, Bool.not_false]
    all_goals omega
  · set_option maxRecDepth 8000 in
    simp only [
        ↓reduceIte, hx, hy, f64Add_magic_odd, f64Sub_magic_odd, f64Add_odd_rest,
        ↓fast_pow.pow_L_2TAG_PACKET_40_0_2_2_sem,
        ↓fast_pow.pow_L_2TAG_PACKET_40_0_2_1_sem, ↓fast_pow.pow_L_2TAG_PACKET_9_0_2_1_sem,
        ↓fast_pow.pow_L_2TAG_PACKET_7_0_2_1_sem, ↓fast_pow.pow_L_2TAG_PACKET_0_0_2_2_sem,
        ↓fast_pow.pow_L_2TAG_PACKET_0_0_2_1_sem, ↓fast_pow.pow_B1_2_1_sem,
        ↓fast_pow.pow_start_1_sem, ↓fast_pow.pow_entry_1_sem, ↓Machine.get_setx,
        ↓Machine.get_setg, ↓Machine.get_setstk, ↓Machine.get_enter, ↓Machine.get_setFlags,
        ↓Machine.trace_set, ↓Machine.get_ite, ↓Machine.trace_ite, ↓Machine.obs_eq_get,
        ↓Machine.flags_get, ↓Machine.flags_trace, ↓sem_get_1, ↓sem_get_2, ↓sem_get_3,
        ↓sem_get_4, ↓sem_trace_1, ↓sem_trace_2, ↓sem_trace_3, ↓sem_trace_4, ↓load_const,
        cc_iff, ea, and_imm, and_imm_left, ilog2_lit, or_eq_zero, or_mod32, or_lt_2p31,
        Nat.mod_mod, Nat.zero_or, Nat.or_zero, Nat.sub_zero, Nat.add_mod_right, lane_eq,
        Machine.io_eq_get, Nat.xor_self, Loc.x.injEq, Loc.g.injEq, Loc.m.injEq,
        Bool.toNat_eq_zero, Bool.toNat_eq_one, Nat.reducePow, Nat.reduceMul,
        Nat.reduceMod, Nat.reduceAdd, Nat.reduceSub, Nat.reduceDiv, Nat.reduceEqDiff,
        Nat.reduceLTLE, Nat.reduceLeDiff, Nat.reduceLT, Nat.reduceGT, Nat.reduceOr,
        Nat.reduceXor, reduceCtorEq, Bool.not_eq_true', Bool.not_eq_true,
        decide_eq_true_eq, decide_eq_false_iff_not, Bool.and_eq_true, Bool.or_eq_true,
        bne_iff_ne, beq_iff_eq, ne_eq, Bool.not_eq_false', Bool.not_eq_false, decide_not,
        not_not, Bool.decide_eq_true, Bool.false_eq_true, Bool.true_eq_false,
        not_false_eq_true, not_true_eq_false, and_true, true_and, and_false, false_and,
        or_true, true_or, or_false, false_or, not_true, not_false_iff, iff_self, true_iff,
        iff_true, false_iff, iff_false, ite_self, decide_eq_decide, decide_False,
        decide_True, Bool.not_true, Bool.not_false]
    all_goals omega
  · set_option maxRecDepth 8000 in
    simp only [
        ↓reduceIte, hx, hy, f64Add_magic_odd, f64Sub_magic_odd, f64Add_odd_rest,
        ↓fast_pow.pow_L_2TAG_PACKET_40_0_2_1_sem, ↓fast_pow.pow_L_2TAG_PACKET_9_0_2_1_sem,
        ↓fast_pow.pow_L_2TAG_PACKET_7_0_2_1_sem, ↓fast_pow.pow_L_2TAG_PACKET_0_0_2_2_sem,
        ↓fast_pow.pow_L_2TAG_PACKET_0_0_2_1_sem, ↓fast_pow.pow_B1_2_1_sem,
        ↓fast_pow.pow_start_1_sem, ↓fast_pow.pow_entry_1_sem, ↓Machine.get_setx,
        ↓Machine.get_setg, ↓Machine.get_setstk, ↓Machine.get_enter, ↓Machine.get_setFlags,
        ↓Machine.trace_set, ↓Machine.get_ite, ↓Machine.trace_ite, ↓Machine.obs_eq_get,
        ↓Machine.flags_get, ↓Machine.flags_trace, ↓sem_get_1, ↓sem_get_2, ↓sem_get_3,
        ↓sem_get_4, ↓sem_trace_1, ↓sem_trace_2, ↓sem_trace_3, ↓sem_trace_4, ↓load_const,
        cc_iff, ea, and_imm, and_imm_left, ilog2_lit, or_eq_zero, or_mod32, or_lt_2p31,
        Nat.mod_mod, Nat.zero_or, Nat.or_zero, Nat.sub_zero, Nat.add_mod_right, lane_eq,
        Machine.io_eq_get, Nat.xor_self, Loc.x.injEq, Loc.g.injEq, Loc.m.injEq,
        Bool.toNat_eq_zero, Bool.toNat_eq_one, Nat.reducePow, Nat.reduceMul,
        Nat.reduceMod, Nat.reduceAdd, Nat.reduceSub, Nat.reduceDiv, Nat.reduceEqDiff,
        Nat.reduceLTLE, Nat.reduceLeDiff, Nat.reduceLT, Nat.reduceGT, Nat.reduceOr,
        Nat.reduceXor, reduceCtorEq, Bool.not_eq_true', Bool.not_eq_true,
        decide_eq_true_eq, decide_eq_false_iff_not, Bool.and_eq_true, Bool.or_eq_true,
        bne_iff_ne, beq_iff_eq, ne_eq, Bool.not_eq_false', Bool.not_eq_false, decide_not,
        not_not, Bool.decide_eq_true, Bool.false_eq_true, Bool.true_eq_false,
        not_false_eq_true, not_true_eq_false, and_true, true_and, and_false, false_and,
        or_true, true_or, or_false, false_or, not_true, not_false_iff, iff_self, true_iff,
        iff_true, false_iff, iff_false, ite_self, decide_eq_decide, decide_False,
        decide_True, Bool.not_true, Bool.not_false]
    all_goals omega
  · set_option maxRecDepth 8000 in
    simp only [
        ↓reduceIte, hx, hy, f64Add_magic_odd, f64Sub_magic_odd, f64Add_odd_rest,
        ↓fast_pow.pow_L_2TAG_PACKET_9_0_2_1_sem, ↓fast_pow.pow_L_2TAG_PACKET_7_0_2_1_sem,
        ↓fast_pow.pow_L_2TAG_PACKET_0_0_2_2_sem, ↓fast_pow.pow_L_2TAG_PACKET_0_0_2_1_sem,
        ↓fast_pow.pow_B1_2_1_sem, ↓fast_pow.pow_start_1_sem, ↓fast_pow.pow_entry_1_sem,
        ↓Machine.get_setx, ↓Machine.get_setg, ↓Machine.get_setstk, ↓Machine.get_enter,
        ↓Machine.get_setFlags, ↓Machine.trace_set, ↓Machine.get_ite, ↓Machine.trace_ite,
        ↓Machine.obs_eq_get, ↓Machine.flags_get, ↓Machine.flags_trace, ↓sem_get_1,
        ↓sem_get_2, ↓sem_get_3, ↓sem_get_4, ↓sem_trace_1, ↓sem_trace_2, ↓sem_trace_3,
        ↓sem_trace_4, ↓load_const, cc_iff, ea, and_imm, and_imm_left, ilog2_lit,
        or_eq_zero, or_mod32, or_lt_2p31, Nat.mod_mod, Nat.zero_or, Nat.or_zero,
        Nat.sub_zero, Nat.add_mod_right, lane_eq, Machine.io_eq_get, Nat.xor_self,
        Loc.x.injEq, Loc.g.injEq, Loc.m.injEq, Bool.toNat_eq_zero, Bool.toNat_eq_one,
        Nat.reducePow, Nat.reduceMul, Nat.reduceMod, Nat.reduceAdd, Nat.reduceSub,
        Nat.reduceDiv, Nat.reduceEqDiff, Nat.reduceLTLE, Nat.reduceLeDiff, Nat.reduceLT,
        Nat.reduceGT, Nat.reduceOr, Nat.reduceXor, reduceCtorEq, Bool.not_eq_true',
        Bool.not_eq_true, decide_eq_true_eq, decide_eq_false_iff_not, Bool.and_eq_true,
        Bool.or_eq_true, bne_iff_ne, beq_iff_eq, ne_eq, Bool.not_eq_false',
        Bool.not_eq_false, decide_not, not_not, Bool.decide_eq_true, Bool.false_eq_true,
        Bool.true_eq_false, not_false_eq_true, not_true_eq_false, and_true, true_and,
        and_false, false_and, or_true, true_or, or_false, false_or, not_true,
        not_false_iff, iff_self, true_iff, iff_true, false_iff, iff_false, ite_self,
        decide_eq_decide, decide_False, decide_True, Bool.not_true, Bool.not_false]
    all_goals omega
  · set_option maxRecDepth 8000 in
    simp only [
        ↓reduceIte, hx, hy, f64Add_magic_odd, f64Sub_magic_odd, f64Add_odd_rest,
        ↓fast_pow.pow_L_2TAG_PACKET_7_0_2_1_sem, ↓fast_pow.pow_L_2TAG_PACKET_0_0_2_2_sem,
        ↓fast_pow.pow_L_2TAG_PACKET_0_0_2_1_sem, ↓fast_pow.pow_B1_2_1_sem,
        ↓fast_pow.pow_start_1_sem, ↓fast_pow.pow_entry_1_sem, ↓Machine.get_setx,
        ↓Machine.get_setg, ↓Machine.get_setstk, ↓Machine.get_enter, ↓Machine.get_setFlags,
        ↓Machine.trace_set, ↓Machine.get_ite, ↓Machine.trace_ite, ↓Machine.obs_eq_get,
        ↓Machine.flags_get, ↓Machine.flags_trace, ↓sem_get_1, ↓sem_get_2, ↓sem_get_3,
        ↓sem_get_4, ↓sem_trace_1, ↓sem_trace_2, ↓sem_trace_3, ↓sem_trace_4, ↓load_const,
        cc_iff, ea, and_imm, and_imm_left, ilog2_lit, or_eq_zero, or_mod32, or_lt_2p31,
        Nat.mod_mod, Nat.zero_or, Nat.or_zero, Nat.sub_zero, Nat.add_mod_right, lane_eq,
        Machine.io_eq_get, Nat.xor_self, Loc.x.injEq, Loc.g.injEq, Loc.m.injEq,
        Bool.toNat_eq_zero, Bool.toNat_eq_one, Nat.reducePow, Nat.reduceMul,
        Nat.reduceMod, Nat.reduceAdd, Nat.reduceSub, Nat.reduceDiv, Nat.reduceEqDiff,
        Nat.reduceLTLE, Nat.reduceLeDiff, Nat.reduceLT, Nat.reduceGT, Nat.reduceOr,
        Nat.reduceXor, reduceCtorEq, Bool.not_eq_true', Bool.not_eq_true,
        decide_eq_true_eq, decide_eq_false_iff_not, Bool.and_eq_true, Bool.or_eq_true,
        bne_iff_ne, beq_iff_eq, ne_eq, Bool.not_eq_false', Bool.not_eq_false, decide_not,
        not_not, Bool.decide_eq_true, Bool.false_eq_true, Bool.true_eq_false,
        not_false_eq_true, not_true_eq_false, and_true, true_and, and_false, false_and,
        or_true, true_or, or_false, false_or, not_true, not_false_iff, iff_self, true_iff,
        iff_true, false_iff, iff_false, ite_self, decide_eq_decide, decide_False,
        decide_True, Bool.not_true, Bool.not_false]
    all_goals omega
  · set_option maxRecDepth 8000 in
    simp only [
        ↓reduceIte, hx, hy, f64Add_magic_odd, f64Sub_magic_odd, f64Add_odd_rest,
        ↓fast_pow.pow_L_2TAG_PACKET_0_0_2_2_sem, ↓fast_pow.pow_L_2TAG_PACKET_0_0_2_1_sem,
        ↓fast_pow.pow_B1_2_1_sem, ↓fast_pow.pow_start_1_sem, ↓fast_pow.pow_entry_1_sem,
        ↓Machine.get_setx, ↓Machine.get_setg, ↓Machine.get_setstk, ↓Machine.get_enter,
        ↓Machine.get_setFlags, ↓Machine.trace_set, ↓Machine.get_ite, ↓Machine.trace_ite,
        ↓Machine.obs_eq_get, ↓Machine.flags_get, ↓Machine.flags_trace, ↓sem_get_1,
        ↓sem_get_2, ↓sem_get_3, ↓sem_get_4, ↓sem_trace_1, ↓sem_trace_2, ↓sem_trace_3,
        ↓sem_trace_4, ↓load_const, cc_iff, ea, and_imm, and_imm_left, ilog2_lit,
        or_eq_zero, or_mod32, or_lt_2p31, Nat.mod_mod, Nat.zero_or, Nat.or_zero,
        Nat.sub_zero, Nat.add_mod_right, lane_eq, Machine.io_eq_get, Nat.xor_self,
        Loc.x.injEq, Loc.g.injEq, Loc.m.injEq, Bool.toNat_eq_zero, Bool.toNat_eq_one,
        Nat.reducePow, Nat.reduceMul, Nat.reduceMod, Nat.reduceAdd, Nat.reduceSub,
        Nat.reduceDiv, Nat.reduceEqDiff, Nat.reduceLTLE, Nat.reduceLeDiff, Nat.reduceLT,
        Nat.reduceGT, Nat.reduceOr, Nat.reduceXor, reduceCtorEq, Bool.not_eq_true',
        Bool.not_eq_true, decide_eq_true_eq, decide_eq_false_iff_not, Bool.and_eq_true,
        Bool.or_eq_true, bne_iff_ne, beq_iff_eq, ne_eq, Bool.not_eq_false',
        Bool.not_eq_false, decide_not, not_not, Bool.decide_eq_true, Bool.false_eq_true,
        Bool.true_eq_false, not_false_eq_true, not_true_eq_false, and_true, true_and,
        and_false, false_and, or_true, true_or, or_false, false_or, not_true,
        not_false_iff, iff_self, true_iff, iff_true, false_iff, iff_false, ite_self,
        decide_eq_decide, decide_False, decide_True, Bool.not_true, Bool.not_false]
    all_goals omega
  · set_option maxRecDepth 8000 in
    simp only [
        ↓reduceIte, hx, hy, f64Add_magic_odd, f64Sub_magic_odd, f64Add_odd_rest,
        ↓fast_pow.pow_L_2TAG_PACKET_0_0_2_1_sem, ↓fast_pow.pow_B1_2_1_sem,
        ↓fast_pow.pow_start_1_sem, ↓fast_pow.pow_entry_1_sem, ↓Machine.get_setx,
        ↓Machine.get_setg, ↓Machine.get_setstk, ↓Machine.get_enter, ↓Machine.get_setFlags,
        ↓Machine.trace_set, ↓Machine.get_ite, ↓Machine.trace_ite, ↓Machine.obs_eq_get,
        ↓Machine.flags_get, ↓Machine.flags_trace, ↓sem_get_1, ↓sem_get_2, ↓sem_get_3,
        ↓sem_get_4, ↓sem_trace_1, ↓sem_trace_2, ↓sem_trace_3, ↓sem_trace_4, ↓load_const,
        cc_iff, ea, and_imm, and_imm_left, ilog2_lit, or_eq_zero, or_mod32, or_lt_2p31,
        Nat.mod_mod, Nat.zero_or, Nat.or_zero, Nat.sub_zero, Nat.add_mod_right, lane_eq,
        Machine.io_eq_get, Nat.xor_self, Loc.x.injEq, Loc.g.injEq, Loc.m.injEq,
        Bool.toNat_eq_zero, Bool.toNat_eq_one, Nat.reducePow, Nat.reduceMul,
        Nat.reduceMod, Nat.reduceAdd, Nat.reduceSub, Nat.reduceDiv, Nat.reduceEqDiff,
        Nat.reduceLTLE, Nat.reduceLeDiff, Nat.reduceLT, Nat.reduceGT, Nat.reduceOr,
        Nat.reduceXor, reduceCtorEq, Bool.not_eq_true', Bool.not_eq_true,
        decide_eq_true_eq, decide_eq_false_iff_not, Bool.and_eq_true, Bool.or_eq_true,
        bne_iff_ne, beq_iff_eq, ne_eq, Bool.not_eq_false', Bool.not_eq_false, decide_not,
        not_not, Bool.decide_eq_true, Bool.false_eq_true, Bool.true_eq_false,
        not_false_eq_true, not_true_eq_false, and_true, true_and, and_false, false_and,
        or_true, true_or, or_false, false_or, not_true, not_false_iff, iff_self, true_iff,
        iff_true, false_iff, iff_false, ite_self, decide_eq_decide, decide_False,
        decide_True, Bool.not_true, Bool.not_false]
    all_goals omega
  · set_option maxRecDepth 8000 in
    simp only [
        ↓reduceIte, hx, hy, f64Add_magic_odd, f64Sub_magic_odd, f64Add_odd_rest,
        ↓fast_pow.pow_B1_2_1_sem, ↓fast_pow.pow_start_1_sem, ↓fast_pow.pow_entry_1_sem,
        ↓Machine.get_setx, ↓Machine.get_setg, ↓Machine.get_setstk, ↓Machine.get_enter,
        ↓Machine.get_setFlags, ↓Machine.trace_set, ↓Machine.get_ite, ↓Machine.trace_ite,
        ↓Machine.obs_eq_get, ↓Machine.flags_get, ↓Machine.flags_trace, ↓sem_get_1,
        ↓sem_get_2, ↓sem_get_3, ↓sem_get_4, ↓sem_trace_1, ↓sem_trace_2, ↓sem_trace_3,
        ↓sem_trace_4, ↓load_const, cc_iff, ea, and_imm, and_imm_left, ilog2_lit,
        or_eq_zero, or_mod32, or_lt_2p31, Nat.mod_mod, Nat.zero_or, Nat.or_zero,
        Nat.sub_zero, Nat.add_mod_right, lane_eq, Machine.io_eq_get, Nat.xor_self,
        Loc.x.injEq, Loc.g.injEq, Loc.m.injEq, Bool.toNat_eq_zero, Bool.toNat_eq_one,
        Nat.reducePow, Nat.reduceMul, Nat.reduceMod, Nat.reduceAdd, Nat.reduceSub,
        Nat.reduceDiv, Nat.reduceEqDiff, Nat.reduceLTLE, Nat.reduceLeDiff, Nat.reduceLT,
        Nat.reduceGT, Nat.reduceOr, Nat.reduceXor, reduceCtorEq, Bool.not_eq_true',
        Bool.not_eq_true, decide_eq_true_eq, decide_eq_false_iff_not, Bool.and_eq_true,
        Bool.or_eq_true, bne_iff_ne, beq_iff_eq, ne_eq, Bool.not_eq_false',
        Bool.not_eq_false, decide_not, not_not, Bool.decide_eq_true, Bool.false_eq_true,
        Bool.true_eq_false, not_false_eq_true, not_true_eq_false, and_true, true_and,
        and_false, false_and, or_true, true_or, or_false, false_or, not_true,
        not_false_iff, iff_self, true_iff, iff_true, false_iff, iff_false, ite_self,
        decide_eq_decide, decide_False, decide_True, Bool.not_true, Bool.not_false]
    all_goals omega

/-- C3 (divergence): `y = 2^51 + 1` (pattern `0x4320000000000002`) is a positive odd integer,
yet `fast_pow(-0, y)` returns `+0` on every processor, not the `-0` stated for positive odd
integers: for exponent field 1074 the sum `1.5 * 2^52 + y` formed in `L_2TAG_PACKET_40_0_2`
is rounded to a multiple of two, so `y` is taken for a non-integer. -/
theorem fast_pow_neg_zero_odd (cpu : Cpu) (s : Machine) (hx : s.arg0 = 0x8000000000000000)
    (hy : s.arg1 = 0x4320000000000002) :
    f64IsOddInteger s.arg1 = true ∧ f64Sign s.arg1 = 0 ∧
    (fast_pow cpu s).result = 0 ∧ (fast_pow cpu s).result ≠ 0x8000000000000000 := by
  have h := fast_pow_nzero_odd_run cpu s hx hy
  rw [h, hy]
  exact ⟨by decide, by decide, rfl, by decide⟩

theorem fast_pow_neg_zero_odd_witness :
    ((Machine.init 0x8000000000000000 0x4320000000000002).arg0 = 0x8000000000000000 ∧
      (Machine.init 0x8000000000000000 0x4320000000000002).arg1 = 0x4320000000000002) ∧
    (fast_pow Cpu.sample (Machine.init 0x8000000000000000 0x4320000000000002)).result = 0 :=
  ⟨by decide, (fast_pow_neg_zero_odd Cpu.sample
    (Machine.init 0x8000000000000000 0x4320000000000002) (by decide) (by decide)).2.2.1⟩

end MacroAssembler

namespace MacroAssembler
open XReg GReg Machine

/-! ### `fast_pow(-Inf, y)` for an odd integer `y` with `2^51 ≤ y < 2^52` -/

theorem fast_pow_ninf_odd_run (cpu : Cpu) (s : Machine) (hx : s.arg0 = 0xFFF0000000000000)
    (hy : s.arg1 = 0x4320000000000002) :
    (fast_pow cpu s).result = 0x7FF0000000000000 := by
  simp only [Machine.io_eq_get, Nat.reducePow] at hx hy
  rw [
      fast_pow, fast_pow.pow_entry_eq, fast_pow.pow_start_eq, fast_pow.pow_B1_2_eq, if_pos,
      fast_pow.pow_L_2TAG_PACKET_0_0_2_eq, if_pos, fast_pow.pow_L_2TAG_PACKET_6_0_2_eq,
      if_pos, fast_pow.pow_L_2TAG_PACKET_15_0_2_eq, if_neg, if_pos,
      fast_pow.pow_L_2TAG_PACKET_20_0_2_eq, if_pos, fast_pow.pow_L_2TAG_PACKET_21_0_2_eq,
      if_neg, if_neg, if_neg, if_neg, if_pos, fast_pow.pow_L_2TAG_PACKET_24_0_2_eq, if_neg,
      fast_pow.pow_B1_5_eq]
  · set_option maxRecDepth 8000 in
    simp only [
        ↓reduceIte, hx, hy, f64Add_magic_odd, f64Sub_magic_odd, f64Add_odd_rest,
        ↓fast_pow.pow_B1_5_1_sem, ↓fast_pow.pow_L_2TAG_PACKET_24_0_2_2_sem,
        ↓fast_pow.pow_L_2TAG_PACKET_24_0_2_1_sem,
        ↓fast_pow.pow_L_2TAG_PACKET_21_0_2_5_sem,
        ↓fast_pow.pow_L_2TAG_PACKET_21_0_2_4_sem,
        ↓fast_pow.pow_L_2TAG_PACKET_21_0_2_3_sem,
        ↓fast_pow.pow_L_2TAG_PACKET_21_0_2_2_sem,
        ↓fast_pow.pow_L_2TAG_PACKET_21_0_2_1_sem,
        ↓fast_pow.pow_L_2TAG_PACKET_20_0_2_1_sem,
        ↓fast_pow.pow_L_2TAG_PACKET_15_0_2_2_sem,
        ↓fast_pow.pow_L_2TAG_PACKET_15_0_2_1_sem, ↓fast_pow.pow_L_2TAG_PACKET_6_0_2_1_sem,
        ↓fast_pow.pow_L_2TAG_PACKET_0_0_2_1_sem, ↓fast_pow.pow_B1_2_1_sem,
        ↓fast_pow.pow_start_1_sem, ↓fast_pow.pow_entry_1_sem, ↓Machine.get_setx,
        ↓Machine.get_setg, ↓Machine.get_setstk, ↓Machine.get_enter, ↓Machine.get_setFlags,
        ↓Machine.trace_set, ↓Machine.get_ite, ↓Machine.trace_ite, ↓Machine.obs_eq_get,
        ↓Machine.flags_get, ↓Machine.flags_trace, ↓sem_get_1, ↓sem_get_2, ↓sem_get_3,
        ↓sem_get_4, ↓sem_trace_1, ↓sem_trace_2, ↓sem_trace_3, ↓sem_trace_4, ↓load_const,
        cc_iff, ea, and_imm, and_imm_left, ilog2_lit, or_eq_zero, or_mod32, or_lt_2p31,
        Nat.mod_mod, Nat.zero_or, Nat.or_zero, Nat.sub_zero, Nat.add_mod_right, lane_eq,
        Machine.io_eq_get, Nat.xor_self, Loc.x.injEq, Loc.g.injEq, Loc.m.injEq,
        Bool.toNat_eq_zero, Bool.toNat_eq_one, Nat.reducePow, Nat.reduceMul,
        Nat.reduceMod, Nat.reduceAdd, Nat.reduceSub, Nat.reduceDiv, Nat.reduceEqDiff,
        Nat.reduceLTLE, Nat.reduceLeDiff, Nat.reduceLT, Nat.reduceGT, Nat.reduceOr,
        Nat.reduceXor, reduceCtorEq, Bool.not_eq_true', Bool.not_eq_true,
        decide_eq_true_eq, decide_eq_false_iff_not, Bool.and_eq_true, Bool.or_eq_true,
        bne_iff_ne, beq_iff_eq, ne_eq, Bool.not_eq_false', Bool.not_eq_false, decide_not,
        not_not, Bool.decide_eq_true, Bool.false_eq_true, Bool.true_eq_false,
        not_false_eq_true, not_true_eq_false, and_true, true_and, and_false, false_and,
        or_true, true_or, or_false, false_or, not_true, not_false_iff, iff_self, true_iff,
        iff_true, false_iff, iff_false, ite_self, decide_eq_decide, decide_False,
        decide_True, Bool.not_true, Bool.not_false]
  · set_option maxRecDepth 8000 in
    simp only [
        ↓reduceIte, hx, hy, f64Add_magic_odd, f64Sub_magic_odd, f64Add_odd_rest,
        ↓fast_pow.pow_L_2TAG_PACKET_24_0_2_1_sem,
        ↓fast_pow.pow_L_2TAG_PACKET_21_0_2_5_sem,
        ↓fast_pow.pow_L_2TAG_PACKET_21_0_2_4_sem,
        ↓fast_pow.pow_L_2TAG_PACKET_21_0_2_3_sem,
        ↓fast_pow.pow_L_2TAG_PACKET_21_0_2_2_sem,
        ↓fast_pow.pow_L_2TAG_PACKET_21_0_2_1_sem,
        ↓fast_pow.pow_L_2TAG_PACKET_20_0_2_1_sem,
        ↓fast_pow.pow_L_2TAG_PACKET_15_0_2_2_sem,
        ↓fast_pow.pow_L_2TAG_PACKET_15_0_2_1_sem, ↓fast_pow.pow_L_2TAG_PACKET_6_0_2_1_sem,
        ↓fast_pow.pow_L_2TAG_PACKET_0_0_2_1_sem, ↓fast_pow.pow_B1_2_1_sem,
        ↓fast_pow.pow_start_1_sem, ↓fast_pow.pow_entry_1_sem, ↓Machine.get_setx,
        ↓Machine.get_setg, ↓Machine.get_setstk, ↓Machine.get_enter, ↓Machine.get_setFlags,
        ↓Machine.trace_set, ↓Machine.get_ite, ↓Machine.trace_ite, ↓Machine.obs_eq_get,
        ↓Machine.flags_get, ↓Machine.flags_trace, ↓sem_get_1, ↓sem_get_2, ↓sem_get_3,
        ↓sem_get_4, ↓sem_trace_1, ↓sem_trace_2, ↓sem_trace_3, ↓sem_trace_4, ↓load_const,
        cc_iff, ea, and_imm, and_imm_left, ilog2_lit, or_eq_zero, or_mod32, or_lt_2p31,
        Nat.mod_mod, Nat.zero_or, Nat.or_zero, Nat.sub_zero, Nat.add_mod_right, lane_eq,
        Machine.io_eq_get, Nat.xor_self, Loc.x.injEq, Loc.g.injEq, Loc.m.injEq,
        Bool.toNat_eq_zero, Bool.toNat_eq_one, Nat.reducePow, Nat.reduceMul,
        Nat.reduceMod, Nat.reduceAdd, Nat.reduceSub, Nat.reduceDiv, Nat.reduceEqDiff,
        Nat.reduceLTLE, Nat.reduceLeDiff, Nat.reduceLT, Nat.reduceGT, Nat.reduceOr,
        Nat.reduceXor, reduceCtorEq, Bool.not_eq_true', Bool.not_eq_true,
        decide_eq_true_eq, decide_eq_false_iff_not, Bool.and_eq_true, Bool.or_eq_true,
        bne_iff_ne, beq_iff_eq, ne_eq, Bool.not_eq_false', Bool.not_eq_false, decide_not,
        not_not, Bool.decide_eq_true, Bool.false_eq_true, Bool.true_eq_false,
        not_false_eq_true, not_true_eq_false, and_true, true_and, and_false, false_and,
        or_true, true_or, or_false, false_or, not_true, not_false_iff, iff_self, true_iff,
        iff_true, false_iff, iff_false, ite_self, decide_eq_decide, decide_False,
        decide_True, Bool.not_true, Bool.not_false]
    all_goals omega
  · set_option maxRecDepth 8000 in
    simp only [
        ↓reduceIte, hx, hy, f64Add_magic_odd, f64Sub_magic_odd, f64Add_odd_rest,
        ↓fast_pow.pow_L_2TAG_PACKET_21_0_2_5_sem,
        ↓fast_pow.pow_L_2TAG_PACKET_21_0_2_4_sem,
        ↓fast_pow.pow_L_2TAG_PACKET_21_0_2_3_sem,
        ↓fast_pow.pow_L_2TAG_PACKET_21_0_2_2_sem,
        ↓fast_pow.pow_L_2TAG_PACKET_21_0_2_1_sem,
        ↓fast_pow.pow_L_2TAG_PACKET_20_0_2_1_sem,
        ↓fast_pow.pow_L_2TAG_PACKET_15_0_2_2_sem,
        ↓fast_pow.pow_L_2TAG_PACKET_15_0_2_1_sem, ↓fast_pow.pow_L_2TAG_PACKET_6_0_2_1_sem,
        ↓fast_pow.pow_L_2TAG_PACKET_0_0_2_1_sem, ↓fast_pow.pow_B1_2_1_sem,
        ↓fast_pow.pow_start_1_sem, ↓fast_pow.pow_entry_1_sem, ↓Machine.get_setx,
        ↓Machine.get_setg, ↓Machine.get_setstk, ↓Machine.get_enter, ↓Machine.get_setFlags,
        ↓Machine.trace_set, ↓Machine.get_ite, ↓Machine.trace_ite, ↓Machine.obs_eq_get,
        ↓Machine.flags_get, ↓Machine.flags_trace, ↓sem_get_1, ↓sem_get_2, ↓sem_get_3,
        ↓sem_get_4, ↓sem_trace_1, ↓sem_trace_2, ↓sem_trace_3, ↓sem_trace_4, ↓load_const,
        cc_iff, ea, and_imm, and_imm_left, ilog2_lit, or_eq_zero, or_mod32, or_lt_2p31,
        Nat.mod_mod, Nat.zero_or, Nat.or_zero, Nat.sub_zero, Nat.add_mod_right, lane_eq,
        Machine.io_eq_get, Nat.xor_self, Loc.x.injEq, Loc.g.injEq, Loc.m.injEq,
        Bool.toNat_eq_zero, Bool.toNat_eq_one, Nat.reducePow, Nat.reduceMul,
        Nat.reduceMod, Nat.reduceAdd, Nat.reduceSub, Nat.reduceDiv, Nat.reduceEqDiff,
        Nat.reduceLTLE, Nat.reduceLeDiff, Nat.reduceLT, Nat.reduceGT, Nat.reduceOr,
        Nat.reduceXor, reduceCtorEq, Bool.not_eq_true', Bool.not_eq_true,
        decide_eq_true_eq, decide_eq_false_iff_not, Bool.and_eq_true, Bool.or_eq_true,
        bne_iff_ne, beq_iff_eq, ne_eq, Bool.not_eq_false', Bool.not_eq_false, decide_not,
        not_not, Bool.decide_eq_true, Bool.false_eq_true, Bool.true_eq_false,
        not_false_eq_true, not_true_eq_false, and_true, true_and, and_false, false_and,
        or_true, true_or, or_false, false_or, not_true, not_false_iff, iff_self, true_iff,
        iff_true, false_iff, iff_false, ite_self, decide_eq_decide, decide_False,
        decide_True, Bool.not_true, Bool.not_false]
    all_goals omega
  · set_option maxRecDepth 8000 in
    simp only [
        ↓reduceIte, hx, hy, f64Add_magic_odd, f64Sub_magic_odd, f64Add_odd_rest,
        ↓fast_pow.pow_L_2TAG_PACKET_21_0_2_4_sem,
        ↓fast_pow.pow_L_2TAG_PACKET_21_0_2_3_sem,
        ↓fast_pow.pow_L_2TAG_PACKET_21_0_2_2_sem,
        ↓fast_pow.pow_L_2TAG_PACKET_21_0_2_1_sem,
        ↓fast_pow.pow_L_2TAG_PACKET_20_0_2_1_sem,
        ↓fast_pow.pow_L_2TAG_PACKET_15_0_2_2_sem,
        ↓fast_pow.pow_L_2TAG_PACKET_15_0_2_1_sem, ↓fast_pow.pow_L_2TAG_PACKET_6_0_2_1_sem,
        ↓fast_pow.pow_L_2TAG_PACKET_0_0_2_1_sem, ↓fast_pow.pow_B1_2_1_sem,
        ↓fast_pow.pow_start_1_sem, ↓fast_pow.pow_entry_1_sem, ↓Machine.get_setx,
        ↓Machine.get_setg, ↓Machine.get_setstk, ↓Machine.get_enter, ↓Machine.get_setFlags,
        ↓Machine.trace_set, ↓Machine.get_ite, ↓Machine.trace_ite, ↓Machine.obs_eq_get,
        ↓Machine.flags_get, ↓Machine.flags_trace, ↓sem_get_1, ↓sem_get_2, ↓sem_get_3,
        ↓sem_get_4, ↓sem_trace_1, ↓sem_trace_2, ↓sem_trace_3, ↓sem_trace_4, ↓load_const,
        cc_iff, ea, and_imm, and_imm_left, ilog2_lit, or_eq_zero, or_mod32, or_lt_2p31,
        Nat.mod_mod, Nat.zero_or, Nat.or_zero, Nat.sub_zero, Nat.add_mod_right, lane_eq,
        Machine.io_eq_get, Nat.xor_self, Loc.x.injEq, Loc.g.injEq, Loc.m.injEq,
        Bool.toNat_eq_zero, Bool.toNat_eq_one, Nat.reducePow, Nat.reduceMul,
        Nat.reduceMod, Nat.reduceAdd, Nat.reduceSub, Nat.reduceDiv, Nat.reduceEqDiff,
        Nat.reduceLTLE, Nat.reduceLeDiff, Nat.reduceLT, Nat.reduceGT, Nat.reduceOr,
        Nat.reduceXor, reduceCtorEq, Bool.not_eq_true', Bool.not_eq_true,
        decide_eq_true_eq, decide_eq_false_iff_not, Bool.and_eq_true, Bool.or_eq_true,
        bne_iff_ne, beq_iff_eq, ne_eq, Bool.not_eq_false', Bool.not_eq_false, decide_not,
        not_not, Bool.decide_eq_true, Bool.false_eq_true, Bool.true_eq_false,
        not_false_eq_true, not_true_eq_false, and_true, true_and, and_false, false_and,
        or_true, true_or, or_false, false_or, not_true, not_false_iff, iff_self, true_iff,
        iff_true, false_iff, iff_false, ite_self, decide_eq_decide, decide_False,
        decide_True, Bool.not_true, Bool.not_false]
    all_goals omega
  · set_option maxRecDepth 8000 in
    simp only [
        ↓reduceIte, hx, hy, f64Add_magic_odd, f64Sub_magic_odd, f64Add_odd_rest,
        ↓fast_pow.pow_L_2TAG_PACKET_21_0_2_3_sem,
        ↓fast_pow.pow_L_2TAG_PACKET_21_0_2_2_sem,
        ↓fast_pow.pow_L_2TAG_PACKET_21_0_2_1_sem,
        ↓fast_pow.pow_L_2TAG_PACKET_20_0_2_1_sem,
        ↓fast_pow.pow_L_2TAG_PACKET_15_0_2_2_sem,
        ↓fast_pow.pow_L_2TAG_PACKET_15_0_2_1_sem, ↓fast_pow.pow_L_2TAG_PACKET_6_0_2_1_sem,
        ↓fast_pow.pow_L_2TAG_PACKET_0_0_2_1_sem, ↓fast_pow.pow_B1_2_1_sem,
        ↓fast_pow.pow_start_1_sem, ↓fast_pow.pow_entry_1_sem, ↓Machine.get_setx,
        ↓Machine.get_setg, ↓Machine.get_setstk, ↓Machine.get_enter, ↓Machine.get_setFlags,
        ↓Machine.trace_set, ↓Machine.get_ite, ↓Machine.trace_ite, ↓Machine.obs_eq_get,
        ↓Machine.flags_get, ↓Machine.flags_trace, ↓sem_get_1, ↓sem_get_2, ↓sem_get_3,
        ↓sem_get_4, ↓sem_trace_1, ↓sem_trace_2, ↓sem_trace_3, ↓sem_trace_4, ↓load_const,
        cc_iff, ea, and_imm, and_imm_left, ilog2_lit, or_eq_zero, or_mod32, or_lt_2p31,
        Nat.mod_mod, Nat.zero_or, Nat.or_zero, Nat.sub_zero, Nat.add_mod_right, lane_eq,
        Machine.io_eq_get, Nat.xor_self, Loc.x.injEq, Loc.g.injEq, Loc.m.injEq,
        Bool.toNat_eq_zero, Bool.toNat_eq_one, Nat.reducePow, Nat.reduceMul,
        Nat.reduceMod, Nat.reduceAdd, Nat.reduceSub, Nat.reduceDiv, Nat.reduceEqDiff,
        Nat.reduceLTLE, Nat.reduceLeDiff, Nat.reduceLT, Nat.reduceGT, Nat.reduceOr,
        Nat.reduceXor, reduceCtorEq, Bool.not_eq_true', Bool.not_eq_true,
        decide_eq_true_eq, decide_eq_false_iff_not, Bool.and_eq_true, Bool.or_eq_true,
        bne_iff_ne, beq_iff_eq, ne_eq, Bool.not_eq_false', Bool.not_eq_false, decide_not,
        not_not, Bool.decide_eq_true, Bool.false_eq_true, Bool.true_eq_false,
        not_false_eq_true, not_true_eq_false, and_true, true_and, and_false, false_and,
        or_true, true_or, or_false, false_or, not_true, not_false_iff, iff_self, true_iff,
        iff_true, false_iff, iff_false, ite_self, decide_eq_decide, decide_False,
        decide_True, Bool.not_true, Bool.not_false]
    all_goals omega
  · set_option maxRecDepth 8000 in
    simp only [
        ↓reduceIte, hx, hy, f64Add_magic_odd, f64Sub_magic_odd, f64Add_odd_rest,
        ↓fast_pow.pow_L_2TAG_PACKET_21_0_2_2_sem,
        ↓fast_pow.pow_L_2TAG_PACKET_21_0_2_1_sem,
        ↓fast_pow.pow_L_2TAG_PACKET_20_0_2_1_sem,
        ↓fast_pow.pow_L_2TAG_PACKET_15_0_2_2_sem,
        ↓fast_pow.pow_L_2TAG_PACKET_15_0_2_1_sem, ↓fast_pow.pow_L_2TAG_PACKET_6_0_2_1_sem,
        ↓fast_pow.pow_L_2TAG_PACKET_0_0_2_1_sem, ↓fast_pow.pow_B1_2_1_sem,
        ↓fast_pow.pow_start_1_sem, ↓fast_pow.pow_entry_1_sem, ↓Machine.get_setx,
        ↓Machine.get_setg, ↓Machine.get_setstk, ↓Machine.get_enter, ↓Machine.get_setFlags,
        ↓Machine.trace_set, ↓Machine.get_ite, ↓Machine.trace_ite, ↓Machine.obs_eq_get,
        ↓Machine.flags_get, ↓Machine.flags_trace, ↓sem_get_1, ↓sem_get_2, ↓sem_get_3,
        ↓sem_get_4, ↓sem_trace_1, ↓sem_trace_2, ↓sem_trace_3, ↓sem_trace_4, ↓load_const,
        cc_iff, ea, and_imm, and_imm_left, ilog2_lit, or_eq_zero, or_mod32, or_lt_2p31,
        Nat.mod_mod, Nat.zero_or, Nat.or_zero, Nat.sub_zero, Nat.add_mod_right, lane_eq,
        Machine.io_eq_get, Nat.xor_self, Loc.x.injEq, Loc.g.injEq, Loc.m.injEq,
        Bool.toNat_eq_zero, Bool.toNat_eq_one, Nat.reducePow, Nat.reduceMul,
        Nat.reduceMod, Nat.reduceAdd, Nat.reduceSub, Nat.reduceDiv, Nat.reduceEqDiff,
        Nat.reduceLTLE, Nat.reduceLeDiff, Nat.reduceLT, Nat.reduceGT, Nat.reduceOr,
        Nat.reduceXor, reduceCtorEq, Bool.not_eq_true', Bool.not_eq_true,
        decide_eq_true_eq, decide_eq_false_iff_not, Bool.and_eq_true, Bool.or_eq_true,
        bne_iff_ne, beq_iff_eq, ne_eq, Bool.not_eq_false', Bool.not_eq_false, decide_not,
        not_not, Bool.decide_eq_true, Bool.false_eq_true, Bool.true_eq_false,
        not_false_eq_true, not_true_eq_false, and_true, true_and, and_false, false_and,
        or_true, true_or, or_false, false_or, not_true, not_false_iff, iff_self, true_iff,
        iff_true, false_iff, iff_false, ite_self, decide_eq_decide, decide_False,
        decide_True, Bool.not_true, Bool.not_false]
    all_goals omega
  · set_option maxRecDepth 8000 in
    simp only [
        ↓reduceIte, hx, hy, f64Add_magic_odd, f64Sub_magic_odd, f64Add_odd_rest,
        ↓fast_pow.pow_L_2TAG_PACKET_21_0_2_1_sem,
        ↓fast_pow.pow_L_2TAG_PACKET_20_0_2_1_sem,
        ↓fast_pow.pow_L_2TAG_PACKET_15_0_2_2_sem,
        ↓fast_pow.pow_L_2TAG_PACKET_15_0_2_1_sem, ↓fast_pow.pow_L_2TAG_PACKET_6_0_2_1_sem,
        ↓fast_pow.pow_L_2TAG_PACKET_0_0_2_1_sem, ↓fast_pow.pow_B1_2_1_sem,
        ↓fast_pow.pow_start_1_sem, ↓fast_pow.pow_entry_1_sem, ↓Machine.get_setx,
        ↓Machine.get_setg, ↓Machine.get_setstk, ↓Machine.get_enter, ↓Machine.get_setFlags,
        ↓Machine.trace_set, ↓Machine.get_ite, ↓Machine.trace_ite, ↓Machine.obs_eq_get,
        ↓Machine.flags_get, ↓Machine.flags_trace, ↓sem_get_1, ↓sem_get_2, ↓sem_get_3,
        ↓sem_get_4, ↓sem_trace_1, ↓sem_trace_2, ↓sem_trace_3, ↓sem_trace_4, ↓load_const,
        cc_iff, ea, and_imm, and_imm_left, ilog2_lit, or_eq_zero, or_mod32, or_lt_2p31,
        Nat.mod_mod, Nat.zero_or, Nat.or_zero, Nat.sub_zero, Nat.add_mod_right, lane_eq,
        Machine.io_eq_get, Nat.xor_self, Loc.x.injEq, Loc.g.injEq, Loc.m.injEq,
        Bool.toNat_eq_zero, Bool.toNat_eq_one, Nat.reducePow, Nat.reduceMul,
        Nat.reduceMod, Nat.reduceAdd, Nat.reduceSub, Nat.reduceDiv, Nat.reduceEqDiff,
        Nat.reduceLTLE, Nat.reduceLeDiff, Nat.reduceLT, Nat.reduceGT, Nat.reduceOr,
        Nat.reduceXor, reduceCtorEq, Bool.not_eq_true', Bool.not_eq_true,
        decide_eq_true_eq, decide_eq_false_iff_not, Bool.and_eq_true, Bool.or_eq_true,
        bne_iff_ne, beq_iff_eq, ne_eq, Bool.not_eq_false', Bool.not_eq_false, decide_not,
        not_not, Bool.decide_eq_true, Bool.false_eq_true, Bool.true_eq_false,
        not_false_eq_true, not_true_eq_false, and_true, true_and, and_false, false_and,
        or_true, true_or, or_false, false_or, not_true, not_false_iff, iff_self, true_iff,
        iff_true, false_iff, iff_false, ite_self, decide_eq_decide, decide_False,
        decide_True, Bool.not_true, Bool.not_false]
    all_goals omega
  · set_option maxRecDepth 8000 in
    simp only [
        ↓reduceIte, hx, hy, f64Add_magic_odd, f64Sub_magic_odd, f64Add_odd_rest,
        ↓fast_pow.pow_L_2TAG_PACKET_20_0_2_1_sem,
        ↓fast_pow.pow_L_2TAG_PACKET_15_0_2_2_sem,
        ↓fast_pow.pow_L_2TAG_PACKET_15_0_2_1_sem, ↓fast_pow.pow_L_2TAG_PACKET_6_0_2_1_sem,
        ↓fast_pow.pow_L_2TAG_PACKET_0_0_2_1_sem, ↓fast_pow.pow_B1_2_1_sem,
        ↓fast_pow.pow_start_1_sem, ↓fast_pow.pow_entry_1_sem, ↓Machine.get_setx,
        ↓Machine.get_setg, ↓Machine.get_setstk, ↓Machine.get_enter, ↓Machine.get_setFlags,
        ↓Machine.trace_set, ↓Machine.get_ite, ↓Machine.trace_ite, ↓Machine.obs_eq_get,
        ↓Machine.flags_get, ↓Machine.flags_trace, ↓sem_get_1, ↓sem_get_2, ↓sem_get_3,
        ↓sem_get_4, ↓sem_trace_1, ↓sem_trace_2, ↓sem_trace_3, ↓sem_trace_4, ↓load_const,
        cc_iff, ea, and_imm, and_imm_left, ilog2_lit, or_eq_zero, or_mod32, or_lt_2p31,
        Nat.mod_mod, Nat.zero_or, Nat.or_zero, Nat.sub_zero, Nat.add_mod_right, lane_eq,
        Machine.io_eq_get, Nat.xor_self, Loc.x.injEq, Loc.g.injEq, Loc.m.injEq,
        Bool.toNat_eq_zero, Bool.toNat_eq_one, Nat.reducePow, Nat.reduceMul,
        Nat.reduceMod, Nat.reduceAdd, Nat.reduceSub, Nat.reduceDiv, Nat.reduceEqDiff,
        Nat.reduceLTLE, Nat.reduceLeDiff, Nat.reduceLT, Nat.reduceGT, Nat.reduceOr,
        Nat.reduceXor, reduceCtorEq, Bool.not_eq_true', Bool.not_eq_true,
        decide_eq_true_eq, decide_eq_false_iff_not, Bool.and_eq_true, Bool.or_eq_true,
        bne_iff_ne, beq_iff_eq, ne_eq, Bool.not_eq_false', Bool.not_eq_false, decide_not,
        not_not, Bool.decide_eq_true, Bool.false_eq_true, Bool.true_eq_false,
        not_false_eq_true, not_true_eq_false, and_true, true_and, and_false, false_and,
        or_true, true_or, or_false, false_or, not_true, not_false_iff, iff_self, true_iff,
        iff_true, false_iff, iff_false, ite_self, decide_eq_decide, decide_False,
        decide_True, Bool.not_true, Bool.not_false]
    all_goals omega
  · set_option maxRecDepth 8000 in
    simp only [
        ↓reduceIte, hx, hy, f64Add_magic_odd, f64Sub_magic_odd, f64Add_odd_rest,
        ↓fast_pow.pow_L_2TAG_PACKET_15_0_2_2_sem,
        ↓fast_pow.pow_L_2TAG_PACKET_15_0_2_1_sem, ↓fast_pow.pow_L_2TAG_PACKET_6_0_2_1_sem,
        ↓fast_pow.pow_L_2TAG_PACKET_0_0_2_1_sem, ↓fast_pow.pow_B1_2_1_sem,
        ↓fast_pow.pow_start_1_sem, ↓fast_pow.pow_entry_1_sem, ↓Machine.get_setx,
        ↓Machine.get_setg, ↓Machine.get_setstk, ↓Machine.get_enter, ↓Machine.get_setFlags,
        ↓Machine.trace_set, ↓Machine.get_ite, ↓Machine.trace_ite, ↓Machine.obs_eq_get,
        ↓Machine.flags_get, ↓Machine.flags_trace, ↓sem_get_1, ↓sem_get_2, ↓sem_get_3,
        ↓sem_get_4, ↓sem_trace_1, ↓sem_trace_2, ↓sem_trace_3, ↓sem_trace_4, ↓load_const,
        cc_iff, ea, and_imm, and_imm_left, ilog2_lit, or_eq_zero, or_mod32, or_lt_2p31,
        Nat.mod_mod, Nat.zero_or, Nat.or_zero, Nat.sub_zero, Nat.add_mod_right, lane_eq,
        Machine.io_eq_get, Nat.xor_self, Loc.x.injEq, Loc.g.injEq, Loc.m.injEq,
        Bool.toNat_eq_zero, Bool.toNat_eq_one, Nat.reducePow, Nat.reduceMul,
        Nat.reduceMod, Nat.reduceAdd, Nat.reduceSub, Nat.reduceDiv, Nat.reduceEqDiff,
        Nat.reduceLTLE, Nat.reduceLeDiff, Nat.reduceLT, Nat.reduceGT, Nat.reduceOr,
        Nat.reduceXor, reduceCtorEq, Bool.not_eq_true', Bool.not_eq_true,
        decide_eq_true_eq, decide_eq_false_iff_not, Bool.and_eq_true, Bool.or_eq_true,
        bne_iff_ne, beq_iff_eq, ne_eq, Bool.not_eq_false', Bool.not_eq_false, decide_not,
        not_not, Bool.decide_eq_true, Bool.false_eq_true, Bool.true_eq_false,
        not_false_eq_true, not_true_eq_false, and_true, true_and, and_false, false_and,
        or_true, true_or, or_false, false_or, not_true, not_false_iff, iff_self, true_iff,
        iff_true, false_iff, iff_false, ite_self, decide_eq_decide, decide_False,
        decide_True, Bool.not_true, Bool.not_false]
    all_goals omega
  · set_option maxRecDepth 8000 in
    simp only [
        ↓reduceIte, hx, hy, f64Add_magic_odd, f64Sub_magic_odd, f64Add_odd_rest,
        ↓fast_pow.pow_L_2TAG_PACKET_15_0_2_1_sem, ↓fast_pow.pow_L_2TAG_PACKET_6_0_2_1_sem,
        ↓fast_pow.pow_L_2TAG_PACKET_0_0_2_1_sem, ↓fast_pow.pow_B1_2_1_sem,
        ↓fast_pow.pow_start_1_sem, ↓fast_pow.pow_entry_1_sem, ↓Machine.get_setx,
        ↓Machine.get_setg, ↓Machine.get_setstk, ↓Machine.get_enter, ↓Machine.get_setFlags,
        ↓Machine.trace_set, ↓Machine.get_ite, ↓Machine.trace_ite, ↓Machine.obs_eq_get,
        ↓Machine.flags_get, ↓Machine.flags_trace, ↓sem_get_1, ↓sem_get_2, ↓sem_get_3,
        ↓sem_get_4, ↓sem_trace_1, ↓sem_trace_2, ↓sem_trace_3, ↓sem_trace_4, ↓load_const,
        cc_iff, ea, and_imm, and_imm_left, ilog2_lit, or_eq_zero, or_mod32, or_lt_2p31,
        Nat.mod_mod, Nat.zero_or, Nat.or_zero, Nat.sub_zero, Nat.add_mod_right, lane_eq,
        Machine.io_eq_get, Nat.xor_self, Loc.x.injEq, Loc.g.injEq, Loc.m.injEq,
        Bool.toNat_eq_zero, Bool.toNat_eq_one, Nat.reducePow, Nat.reduceMul,
        Nat.reduceMod, Nat.reduceAdd, Nat.reduceSub, Nat.reduceDiv, Nat.reduceEqDiff,
        Nat.reduceLTLE, Nat.reduceLeDiff, Nat.reduceLT, Nat.reduceGT, Nat.reduceOr,
        Nat.reduceXor, reduceCtorEq, Bool.not_eq_true', Bool.not_eq_true,
        decide_eq_true_eq, decide_eq_false_iff_not, Bool.and_eq_true, Bool.or_eq_true,
        bne_iff_ne, beq_iff_eq, ne_eq, Bool.not_eq_false', Bool.not_eq_false, decide_not,
        not_not, Bool.decide_eq_true, Bool.false_eq_true, Bool.true_eq_false,
        not_false_eq_true, not_true_eq_false, and_true, true_and, and_false, false_and,
        or_true, true_or, or_false, false_or, not_true, not_false_iff, iff_self, true_iff,
        iff_true, false_iff, iff_false, ite_self, decide_eq_decide, decide_False,
        decide_True, Bool.not_true, Bool.not_false]
    all_goals omega
  · set_option maxRecDepth 8000 in
    simp only [
        ↓reduceIte, hx, hy, f64Add_magic_odd, f64Sub_magic_odd, f64Add_odd_rest,
        ↓fast_pow.pow_L_2TAG_PACKET_6_0_2_1_sem, ↓fast_pow.pow_L_2TAG_PACKET_0_0_2_1_sem,
        ↓fast_pow.pow_B1_2_1_sem, ↓fast_pow.pow_start_1_sem, ↓fast_pow.pow_entry_1_sem,
        ↓Machine.get_setx, ↓Machine.get_setg, ↓Machine.get_setstk, ↓Machine.get_enter,
        ↓Machine.get_setFlags, ↓Machine.trace_set, ↓Machine.get_ite, ↓Machine.trace_ite,
        ↓Machine.obs_eq_get, ↓Machine.flags_get, ↓Machine.flags_trace, ↓sem_get_1,
        ↓sem_get_2, ↓sem_get_3, ↓sem_get_4, ↓sem_trace_1, ↓sem_trace_2, ↓sem_trace_3,
        ↓sem_trace_4, ↓load_const, cc_iff, ea, and_imm, and_imm_left, ilog2_lit,
        or_eq_zero, or_mod32, or_lt_2p31, Nat.mod_mod, Nat.zero_or, Nat.or_zero,
        Nat.sub_zero, Nat.add_mod_right, lane_eq, Machine.io_eq_get, Nat.xor_self,
        Loc.x.injEq, Loc.g.injEq, Loc.m.injEq, Bool.toNat_eq_zero, Bool.toNat_eq_one,
        Nat.reducePow, Nat.reduceMul, Nat.reduceMod, Nat.reduceAdd, Nat.reduceSub,
        Nat.reduceDiv, Nat.reduceEqDiff, Nat.reduceLTLE, Nat.reduceLeDiff, Nat.reduceLT,
        Nat.reduceGT, Nat.reduceOr, Nat.reduceXor, reduceCtorEq, Bool.not_eq_true',
        Bool.not_eq_true, decide_eq_true_eq, decide_eq_false_iff_not, Bool.and_eq_true,
        Bool.or_eq_true, bne_iff_ne, beq_iff_eq, ne_eq, Bool.not_eq_false',
        Bool.not_eq_false, decide_not, not_not, Bool.decide_eq_true, Bool.false_eq_true,
        Bool.true_eq_false, not_false_eq_true, not_true_eq_false, and_true, true_and,
        and_false, false_and, or_true, true_or, or_false, false_or, not_true,
        not_false_iff, iff_self, true_iff, iff_true, false_iff, iff_false, ite_self,
        decide_eq_decide, decide_False, decide_True, Bool.not_true, Bool.not_false]
    all_goals omega
  · set_option maxRecDepth 8000 in
    simp only [
        ↓reduceIte, hx, hy, f64Add_magic_odd, f64Sub_magic_odd, f64Add_odd_rest,
        ↓fast_pow.pow_L_2TAG_PACKET_0_0_2_1_sem, ↓fast_pow.pow_B1_2_1_sem,
        ↓fast_pow.pow_start_1_sem, ↓fast_pow.pow_entry_1_sem, ↓Machine.get_setx,
        ↓Machine.get_setg, ↓Machine.get_setstk, ↓Machine.get_enter, ↓Machine.get_setFlags,
        ↓Machine.trace_set, ↓Machine.get_ite, ↓Machine.trace_ite, ↓Machine.obs_eq_get,
        ↓Machine.flags_get, ↓Machine.flags_trace, ↓sem_get_1, ↓sem_get_2, ↓sem_get_3,
        ↓sem_get_4, ↓sem_trace_1, ↓sem_trace_2, ↓sem_trace_3, ↓sem_trace_4, ↓load_const,
        cc_iff, ea, and_imm, and_imm_left, ilog2_lit, or_eq_zero, or_mod32, or_lt_2p31,
        Nat.mod_mod, Nat.zero_or, Nat.or_zero, Nat.sub_zero, Nat.add_mod_right, lane_eq,
        Machine.io_eq_get, Nat.xor_self, Loc.x.injEq, Loc.g.injEq, Loc.m.injEq,
        Bool.toNat_eq_zero, Bool.toNat_eq_one, Nat.reducePow, Nat.reduceMul,
        Nat.reduceMod, Nat.reduceAdd, Nat.reduceSub, Nat.reduceDiv, Nat.reduceEqDiff,
        Nat.reduceLTLE, Nat.reduceLeDiff, Nat.reduceLT, Nat.reduceGT, Nat.reduceOr,
        Nat.reduceXor, reduceCtorEq, Bool.not_eq_true', Bool.not_eq_true,
        decide_eq_true_eq, decide_eq_false_iff_not, Bool.and_eq_true, Bool.or_eq_true,
        bne_iff_ne, beq_iff_eq, ne_eq, Bool.not_eq_false', Bool.not_eq_false, decide_not,
        not_not, Bool.decide_eq_true, Bool.false_eq_true, Bool.true_eq_false,
        not_false_eq_true, not_true_eq_false, and_true, true_and, and_false, false_and,
        or_true, true_or, or_false, false_or, not_true, not_false_iff, iff_self, true_iff,
        iff_true, false_iff, iff_false, ite_self, decide_eq_decide, decide_False,
        decide_True, Bool.not_true, Bool.not_false]
    all_goals omega
  · set_option maxRecDepth 8000 in
    simp only [
        ↓reduceIte, hx, hy, f64Add_magic_odd, f64Sub_magic_odd, f64Add_odd_rest,
        ↓fast_pow.pow_B1_2_1_sem, ↓fast_pow.pow_start_1_sem, ↓fast_pow.pow_entry_1_sem,
        ↓Machine.get_setx, ↓Machine.get_setg, ↓Machine.get_setstk, ↓Machine.get_enter,
        ↓Machine.get_setFlags, ↓Machine.trace_set, ↓Machine.get_ite, ↓Machine.trace_ite,
        ↓Machine.obs_eq_get, ↓Machine.flags_get, ↓Machine.flags_trace, ↓sem_get_1,
        ↓sem_get_2, ↓sem_get_3, ↓sem_get_4, ↓sem_trace_1, ↓sem_trace_2, ↓sem_trace_3,
        ↓sem_trace_4, ↓load_const, cc_iff, ea, and_imm, and_imm_left, ilog2_lit,
        or_eq_zero, or_mod32, or_lt_2p31, Nat.mod_mod, Nat.zero_or, Nat.or_zero,
        Nat.sub_zero, Nat.add_mod_right, lane_eq, Machine.io_eq_get, Nat.xor_self,
        Loc.x.injEq, Loc.g.injEq, Loc.m.injEq, Bool.toNat_eq_zero, Bool.toNat_eq_one,
        Nat.reducePow, Nat.reduceMul, Nat.reduceMod, Nat.reduceAdd, Nat.reduceSub,
        Nat.reduceDiv, Nat.reduceEqDiff, Nat.reduceLTLE, Nat.reduceLeDiff, Nat.reduceLT,
        Nat.reduceGT, Nat.reduceOr, Nat.reduceXor, reduceCtorEq, Bool.not_eq_true',
        Bool.not_eq_true, decide_eq_true_eq, decide_eq_false_iff_not, Bool.and_eq_true,
        Bool.or_eq_true, bne_iff_ne, beq_iff_eq, ne_eq, Bool.not_eq_false',
        Bool.not_eq_false, decide_not, not_not, Bool.decide_eq_true, Bool.false_eq_true,
        Bool.true_eq_false, not_false_eq_true, not_true_eq_false, and_true, true_and,
        and_false, false_and, or_true, true_or, or_false, false_or, not_true,
        not_false_iff, iff_self, true_iff, iff_true, false_iff, iff_false, ite_self,
        decide_eq_decide, decide_False, decide_True, Bool.not_true, Bool.not_false]
    all_goals omega

/-- C4 (divergence): `y = 2^51 + 1` (pattern `0x4320000000000002`) is a positive odd integer,
yet `fast_pow(-Inf, y)` returns `+Inf` on every processor, not the `-Inf` stated for positive
odd integers: in `L_2TAG_PACKET_21_0_2` the branch to `L_2TAG_PACKET_23_0_2` is taken for an
exponent field above 1074 only, after 1075 and above have left, so exponent field 1074 goes
through the sum `1.5 * 2^52 + y`, which is rounded to a multiple of two. -/
theorem fast_pow_neg_inf_odd (cpu : Cpu) (s : Machine) (hx : s.arg0 = 0xFFF0000000000000)
    (hy : s.arg1 = 0x4320000000000002) :
    f64IsOddInteger s.arg1 = true ∧ f64Sign s.arg1 = 0 ∧
    (fast_pow cpu s).result = 0x7FF0000000000000 ∧
    (fast_pow cpu s).result ≠ 0xFFF0000000000000 := by
  have h := fast_pow_ninf_odd_run cpu s hx hy
  rw [h, hy]
  exact ⟨by decide, by decide, rfl, by decide⟩

theorem fast_pow_neg_inf_odd_witness :
    ((Machine.init 0xFFF0000000000000 0x4320000000000002).arg0 = 0xFFF0000000000000 ∧
      (Machine.init 0xFFF0000000000000 0x4320000000000002).arg1 = 0x4320000000000002) ∧
    (fast_pow Cpu.sample (Machine.init 0xFFF0000000000000 0x4320000000000002)).result =
      0x7FF0000000000000 :=
  ⟨by decide, (fast_pow_neg_inf_odd Cpu.sample
    (Machine.init 0xFFF0000000000000 0x4320000000000002) (by decide) (by decide)).2.2.1⟩

end MacroAssembler

namespace MacroAssembler
open XReg GReg Machine

/-! ### `fast_pow` with base `+Inf` -/

theorem fast_pow_pinf_pos_run (cpu : Cpu) (s : Machine) (hx : s.arg0 = 0x7FF0000000000000)
    (h1 : 0 < s.arg1) (h2 : s.arg1 < 0x7FF0000000000000) :
    (fast_pow cpu s).result = 0x7FF0000000000000 := by
  simp only [Machine.io_eq_get, Nat.reducePow] at hx h1 h2
  have h3 : s.get (.x xmm0) / 281474976710656 % 65536 = 32752 := by omega
  rw [
      fast_pow, fast_pow.pow_entry_eq, fast_pow.pow_start_eq, fast_pow.pow_B1_2_eq, if_pos,
      fast_pow.pow_L_2TAG_PACKET_0_0_2_eq, if_pos, fast_pow.pow_L_2TAG_PACKET_6_0_2_eq,
      if_pos, fast_pow.pow_L_2TAG_PACKET_15_0_2_eq, if_neg, if_pos,
      fast_pow.pow_L_2TAG_PACKET_20_0_2_eq, if_neg, if_neg, fast_pow.pow_B1_5_eq]
  · set_option maxRecDepth 8000 in
    simp only [
        ↓reduceIte, hx, h3, ↓fast_pow.pow_B1_5_1_sem,
        ↓fast_pow.pow_L_2TAG_PACKET_20_0_2_3_sem,
        ↓fast_pow.pow_L_2TAG_PACKET_20_0_2_2_sem,
        ↓fast_pow.pow_L_2TAG_PACKET_20_0_2_1_sem,
        ↓fast_pow.pow_L_2TAG_PACKET_15_0_2_2_sem,
        ↓fast_pow.pow_L_2TAG_PACKET_15_0_2_1_sem, ↓fast_pow.pow_L_2TAG_PACKET_6_0_2_1_sem,
        ↓fast_pow.pow_L_2TAG_PACKET_0_0_2_1_sem, ↓fast_pow.pow_B1_2_1_sem,
        ↓fast_pow.pow_start_1_sem, ↓fast_pow.pow_entry_1_sem, ↓Machine.get_setx,
        ↓Machine.get_setg, ↓Machine.get_setstk, ↓Machine.get_enter, ↓Machine.get_setFlags,
        ↓Machine.trace_set, ↓Machine.get_ite, ↓Machine.trace_ite, ↓Machine.obs_eq_get,
        ↓Machine.flags_get, ↓Machine.flags_trace, ↓sem_get_1, ↓sem_get_2, ↓sem_get_3,
        ↓sem_get_4, ↓sem_trace_1, ↓sem_trace_2, ↓sem_trace_3, ↓sem_trace_4, ↓load_const,
        cc_iff, ea, and_imm, and_imm_left, ilog2_lit, or_eq_zero, or_mod32, or_lt_2p31,
        Nat.mod_mod, Nat.zero_or, Nat.or_zero, Nat.sub_zero, Nat.add_mod_right, lane_eq,
        Machine.io_eq_get, Nat.xor_self, Loc.x.injEq, Loc.g.injEq, Loc.m.injEq,
        Bool.toNat_eq_zero, Bool.toNat_eq_one, Nat.reducePow, Nat.reduceMul,
        Nat.reduceMod, Nat.reduceAdd, Nat.reduceSub, Nat.reduceDiv, Nat.reduceEqDiff,
        Nat.reduceLTLE, Nat.reduceLeDiff, Nat.reduceLT, Nat.reduceGT, Nat.reduceOr,
        Nat.reduceXor, reduceCtorEq, Bool.not_eq_true', Bool.not_eq_true,
        decide_eq_true_eq, decide_eq_false_iff_not, Bool.and_eq_true, Bool.or_eq_true,
        bne_iff_ne, beq_iff_eq, ne_eq, Bool.not_eq_false', Bool.not_eq_false, decide_not,
        not_not, Bool.decide_eq_true, Bool.false_eq_true, Bool.true_eq_false,
        not_false_eq_true, not_true_eq_false, and_true, true_and, and_false, false_and,
        or_true, true_or, or_false, false_or, not_true, not_false_iff, iff_self, true_iff,
        iff_true, false_iff, iff_false, ite_self, decide_eq_decide, decide_False,
        decide_True, Bool.not_true, Bool.not_false]
  · set_option maxRecDepth 8000 in
    simp only [
        ↓reduceIte, hx, h3, ↓fast_pow.pow_L_2TAG_PACKET_20_0_2_2_sem,
        ↓fast_pow.pow_L_2TAG_PACKET_20_0_2_1_sem,
        ↓fast_pow.pow_L_2TAG_PACKET_15_0_2_2_sem,
        ↓fast_pow.pow_L_2TAG_PACKET_15_0_2_1_sem, ↓fast_pow.pow_L_2TAG_PACKET_6_0_2_1_sem,
        ↓fast_pow.pow_L_2TAG_PACKET_0_0_2_1_sem, ↓fast_pow.pow_B1_2_1_sem,
        ↓fast_pow.pow_start_1_sem, ↓fast_pow.pow_entry_1_sem, ↓Machine.get_setx,
        ↓Machine.get_setg, ↓Machine.get_setstk, ↓Machine.get_enter, ↓Machine.get_setFlags,
        ↓Machine.trace_set, ↓Machine.get_ite, ↓Machine.trace_ite, ↓Machine.obs_eq_get,
        ↓Machine.flags_get, ↓Machine.flags_trace, ↓sem_get_1, ↓sem_get_2, ↓sem_get_3,
        ↓sem_get_4, ↓sem_trace_1, ↓sem_trace_2, ↓sem_trace_3, ↓sem_trace_4, ↓load_const,
        cc_iff, ea, and_imm, and_imm_left, ilog2_lit, or_eq_zero, or_mod32, or_lt_2p31,
        Nat.mod_mod, Nat.zero_or, Nat.or_zero, Nat.sub_zero, Nat.add_mod_right, lane_eq,
        Machine.io_eq_get, Nat.xor_self, Loc.x.injEq, Loc.g.injEq, Loc.m.injEq,
        Bool.toNat_eq_zero, Bool.toNat_eq_one, Nat.reducePow, Nat.reduceMul,
        Nat.reduceMod, Nat.reduceAdd, Nat.reduceSub, Nat.reduceDiv, Nat.reduceEqDiff,
        Nat.reduceLTLE, Nat.reduceLeDiff, Nat.reduceLT, Nat.reduceGT, Nat.reduceOr,
        Nat.reduceXor, reduceCtorEq, Bool.not_eq_true', Bool.not_eq_true,
        decide_eq_true_eq, decide_eq_false_iff_not, Bool.and_eq_true, Bool.or_eq_true,
        bne_iff_ne, beq_iff_eq, ne_eq, Bool.not_eq_false', Bool.not_eq_false, decide_not,
        not_not, Bool.decide_eq_true, Bool.false_eq_true, Bool.true_eq_false,
        not_false_eq_true, not_true_eq_false, and_true, true_and, and_false, false_and,
        or_true, true_or, or_false, false_or, not_true, not_false_iff, iff_self, true_iff,
        iff_true, false_iff, iff_false, ite_self, decide_eq_decide, decide_False,
        decide_True, Bool.not_true, Bool.not_false]
    all_goals omega
  · set_option maxRecDepth 8000 in
    simp only [
        ↓reduceIte, hx, h3, ↓fast_pow.pow_L_2TAG_PACKET_20_0_2_1_sem,
        ↓fast_pow.pow_L_2TAG_PACKET_15_0_2_2_sem,
        ↓fast_pow.pow_L_2TAG_PACKET_15_0_2_1_sem, ↓fast_pow.pow_L_2TAG_PACKET_6_0_2_1_sem,
        ↓fast_pow.pow_L_2TAG_PACKET_0_0_2_1_sem, ↓fast_pow.pow_B1_2_1_sem,
        ↓fast_pow.pow_start_1_sem, ↓fast_pow.pow_entry_1_sem, ↓Machine.get_setx,
        ↓Machine.get_setg, ↓Machine.get_setstk, ↓Machine.get_enter, ↓Machine.get_setFlags,
        ↓Machine.trace_set, ↓Machine.get_ite, ↓Machine.trace_ite, ↓Machine.obs_eq_get,
        ↓Machine.flags_get, ↓Machine.flags_trace, ↓sem_get_1, ↓sem_get_2, ↓sem_get_3,
        ↓sem_get_4, ↓sem_trace_1, ↓sem_trace_2, ↓sem_trace_3, ↓sem_trace_4, ↓load_const,
        cc_iff, ea, and_imm, and_imm_left, ilog2_lit, or_eq_zero, or_mod32, or_lt_2p31,
        Nat.mod_mod, Nat.zero_or, Nat.or_zero, Nat.sub_zero, Nat.add_mod_right, lane_eq,
        Machine.io_eq_get, Nat.xor_self, Loc.x.injEq, Loc.g.injEq, Loc.m.injEq,
        Bool.toNat_eq_zero, Bool.toNat_eq_one, Nat.reducePow, Nat.reduceMul,
        Nat.reduceMod, Nat.reduceAdd, Nat.reduceSub, Nat.reduceDiv, Nat.reduceEqDiff,
        Nat.reduceLTLE, Nat.reduceLeDiff, Nat.reduceLT, Nat.reduceGT, Nat.reduceOr,
        Nat.reduceXor, reduceCtorEq, Bool.not_eq_true', Bool.not_eq_true,
        decide_eq_true_eq, decide_eq_false_iff_not, Bool.and_eq_true, Bool.or_eq_true,
        bne_iff_ne, beq_iff_eq, ne_eq, Bool.not_eq_false', Bool.not_eq_false, decide_not,
        not_not, Bool.decide_eq_true, Bool.false_eq_true, Bool.true_eq_false,
        not_false_eq_true, not_true_eq_false, and_true, true_and, and_false, false_and,
        or_true, true_or, or_false, false_or, not_true, not_false_iff, iff_self, true_iff,
        iff_true, false_iff, iff_false, ite_self, decide_eq_decide, decide_False,
        decide_True, Bool.not_true, Bool.not_false]
    all_goals omega
  · set_option maxRecDepth 8000 in
    simp only [
        ↓reduceIte, hx, h3, ↓fast_pow.pow_L_2TAG_PACKET_15_0_2_2_sem,
        ↓fast_pow.pow_L_2TAG_PACKET_15_0_2_1_sem, ↓fast_pow.pow_L_2TAG_PACKET_6_0_2_1_sem,
        ↓fast_pow.pow_L_2TAG_PACKET_0_0_2_1_sem, ↓fast_pow.pow_B1_2_1_sem,
        ↓fast_pow.pow_start_1_sem, ↓fast_pow.pow_entry_1_sem, ↓Machine.get_setx,
        ↓Machine.get_setg, ↓Machine.get_setstk, ↓Machine.get_enter, ↓Machine.get_setFlags,
        ↓Machine.trace_set, ↓Machine.get_ite, ↓Machine.trace_ite, ↓Machine.obs_eq_get,
        ↓Machine.flags_get, ↓Machine.flags_trace, ↓sem_get_1, ↓sem_get_2, ↓sem_get_3,
        ↓sem_get_4, ↓sem_trace_1, ↓sem_trace_2, ↓sem_trace_3, ↓sem_trace_4, ↓load_const,
        cc_iff, ea, and_imm, and_imm_left, ilog2_lit, or_eq_zero, or_mod32, or_lt_2p31,
        Nat.mod_mod, Nat.zero_or, Nat.or_zero, Nat.sub_zero, Nat.add_mod_right, lane_eq,
        Machine.io_eq_get, Nat.xor_self, Loc.x.injEq, Loc.g.injEq, Loc.m.injEq,
        Bool.toNat_eq_zero, Bool.toNat_eq_one, Nat.reducePow, Nat.reduceMul,
        Nat.reduceMod, Nat.reduceAdd, Nat.reduceSub, Nat.reduceDiv, Nat.reduceEqDiff,
        Nat.reduceLTLE, Nat.reduceLeDiff, Nat.reduceLT, Nat.reduceGT, Nat.reduceOr,
        Nat.reduceXor, reduceCtorEq, Bool.not_eq_true', Bool.not_eq_true,
        decide_eq_true_eq, decide_eq_false_iff_not, Bool.and_eq_true, Bool.or_eq_true,
        bne_iff_ne, beq_iff_eq, ne_eq, Bool.not_eq_false', Bool.not_eq_false, decide_not,
        not_not, Bool.decide_eq_true, Bool.false_eq_true, Bool.true_eq_false,
        not_false_eq_true, not_true_eq_false, and_true, true_and, and_false, false_and,
        or_true, true_or, or_false, false_or, not_true, not_false_iff, iff_self, true_iff,
        iff_true, false_iff, iff_false, ite_self, decide_eq_decide, decide_False,
        decide_True, Bool.not_true, Bool.not_false]
    all_goals omega
  · set_option maxRecDepth 8000 in
    simp only [
        ↓reduceIte, hx, h3, ↓fast_pow.pow_L_2TAG_PACKET_15_0_2_1_sem,
        ↓fast_pow.pow_L_2TAG_PACKET_6_0_2_1_sem, ↓fast_pow.pow_L_2TAG_PACKET_0_0_2_1_sem,
        ↓fast_pow.pow_B1_2_1_sem, ↓fast_pow.pow_start_1_sem, ↓fast_pow.pow_entry_1_sem,
        ↓Machine.get_setx, ↓Machine.get_setg, ↓Machine.get_setstk, ↓Machine.get_enter,
        ↓Machine.get_setFlags, ↓Machine.trace_set, ↓Machine.get_ite, ↓Machine.trace_ite,
        ↓Machine.obs_eq_get, ↓Machine.flags_get, ↓Machine.flags_trace, ↓sem_get_1,
        ↓sem_get_2, ↓sem_get_3, ↓sem_get_4, ↓sem_trace_1, ↓sem_trace_2, ↓sem_trace_3,
        ↓sem_trace_4, ↓load_const, cc_iff, ea, and_imm, and_imm_left, ilog2_lit,
        or_eq_zero, or_mod32, or_lt_2p31, Nat.mod_mod, Nat.zero_or, Nat.or_zero,
        Nat.sub_zero, Nat.add_mod_right, lane_eq, Machine.io_eq_get, Nat.xor_self,
        Loc.x.injEq, Loc.g.injEq, Loc.m.injEq, Bool.toNat_eq_zero, Bool.toNat_eq_one,
        Nat.reducePow, Nat.reduceMul, Nat.reduceMod, Nat.reduceAdd, Nat.reduceSub,
        Nat.reduceDiv, Nat.reduceEqDiff, Nat.reduceLTLE, Nat.reduceLeDiff, Nat.reduceLT,
        Nat.reduceGT, Nat.reduceOr, Nat.reduceXor, reduceCtorEq, Bool.not_eq_true',
        Bool.not_eq_true, decide_eq_true_eq, decide_eq_false_iff_not, Bool.and_eq_true,
        Bool.or_eq_true, bne_iff_ne, beq_iff_eq, ne_eq, Bool.not_eq_false',
        Bool.not_eq_false, decide_not, not_not, Bool.decide_eq_true, Bool.false_eq_true,
        Bool.true_eq_false, not_false_eq_true, not_true_eq_false, and_true, true_and,
        and_false, false_and, or_true, true_or, or_false, false_or, not_true,
        not_false_iff, iff_self, true_iff, iff_true, false_iff, iff_false, ite_self,
        decide_eq_decide, decide_False, decide_True, Bool.not_true, Bool.not_false]
    all_goals omega
  · set_option maxRecDepth 8000 in
    simp only [
        ↓reduceIte, hx, h3, ↓fast_pow.pow_L_2TAG_PACKET_6_0_2_1_sem,
        ↓fast_pow.pow_L_2TAG_PACKET_0_0_2_1_sem, ↓fast_pow.pow_B1_2_1_sem,
        ↓fast_pow.pow_start_1_sem, ↓fast_pow.pow_entry_1_sem, ↓Machine.get_setx,
        ↓Machine.get_setg, ↓Machine.get_setstk, ↓Machine.get_enter, ↓Machine.get_setFlags,
        ↓Machine.trace_set, ↓Machine.get_ite, ↓Machine.trace_ite, ↓Machine.obs_eq_get,
        ↓Machine.flags_get, ↓Machine.flags_trace, ↓sem_get_1, ↓sem_get_2, ↓sem_get_3,
        ↓sem_get_4, ↓sem_trace_1, ↓sem_trace_2, ↓sem_trace_3, ↓sem_trace_4, ↓load_const,
        cc_iff, ea, and_imm, and_imm_left, ilog2_lit, or_eq_zero, or_mod32, or_lt_2p31,
        Nat.mod_mod, Nat.zero_or, Nat.or_zero, Nat.sub_zero, Nat.add_mod_right, lane_eq,
        Machine.io_eq_get, Nat.xor_self, Loc.x.injEq, Loc.g.injEq, Loc.m.injEq,
        Bool.toNat_eq_zero, Bool.toNat_eq_one, Nat.reducePow, Nat.reduceMul,
        Nat.reduceMod, Nat.reduceAdd, Nat.reduceSub, Nat.reduceDiv, Nat.reduceEqDiff,
        Nat.reduceLTLE, Nat.reduceLeDiff, Nat.reduceLT, Nat.reduceGT, Nat.reduceOr,
        Nat.reduceXor, reduceCtorEq, Bool.not_eq_true', Bool.not_eq_true,
        decide_eq_true_eq, decide_eq_false_iff_not, Bool.and_eq_true, Bool.or_eq_true,
        bne_iff_ne, beq_iff_eq, ne_eq, Bool.not_eq_false', Bool.not_eq_false, decide_not,
        not_not, Bool.decide_eq_true, Bool.false_eq_true, Bool.true_eq_false,
        not_false_eq_true, not_true_eq_false, and_true, true_and, and_false, false_and,
        or_true, true_or, or_false, false_or, not_true, not_false_iff, iff_self, true_iff,
        iff_true, false_iff, iff_false, ite_self, decide_eq_decide, decide_False,
        decide_True, Bool.not_true, Bool.not_false]
    all_goals omega
  · set_option maxRecDepth 8000 in
    simp only [
        ↓reduceIte, hx, h3, ↓fast_pow.pow_L_2TAG_PACKET_0_0_2_1_sem,
        ↓fast_pow.pow_B1_2_1_sem, ↓fast_pow.pow_start_1_sem, ↓fast_pow.pow_entry_1_sem,
        ↓Machine.get_setx, ↓Machine.get_setg, ↓Machine.get_setstk, ↓Machine.get_enter,
        ↓Machine.get_setFlags, ↓Machine.trace_set, ↓Machine.get_ite, ↓Machine.trace_ite,
        ↓Machine.obs_eq_get, ↓Machine.flags_get, ↓Machine.flags_trace, ↓sem_get_1,
        ↓sem_get_2, ↓sem_get_3, ↓sem_get_4, ↓sem_trace_1, ↓sem_trace_2, ↓sem_trace_3,
        ↓sem_trace_4, ↓load_const, cc_iff, ea, and_imm, and_imm_left, ilog2_lit,
        or_eq_zero, or_mod32, or_lt_2p31, Nat.mod_mod, Nat.zero_or, Nat.or_zero,
        Nat.sub_zero, Nat.add_mod_right, lane_eq, Machine.io_eq_get, Nat.xor_self,
        Loc.x.injEq, Loc.g.injEq, Loc.m.injEq, Bool.toNat_eq_zero, Bool.toNat_eq_one,
        Nat.reducePow, Nat.reduceMul, Nat.reduceMod, Nat.reduceAdd, Nat.reduceSub,
        Nat.reduceDiv, Nat.reduceEqDiff, Nat.reduceLTLE, Nat.reduceLeDiff, Nat.reduceLT,
        Nat.reduceGT, Nat.reduceOr, Nat.reduceXor, reduceCtorEq, Bool.not_eq_true',
        Bool.not_eq_true, decide_eq_true_eq, decide_eq_false_iff_not, Bool.and_eq_true,
        Bool.or_eq_true, bne_iff_ne, beq_iff_eq, ne_eq, Bool.not_eq_false',
        Bool.not_eq_false, decide_not, not_not, Bool.decide_eq_true, Bool.false_eq_true,
        Bool.true_eq_false, not_false_eq_true, not_true_eq_false, and_true, true_and,
        and_false, false_and, or_true, true_or, or_false, false_or, not_true,
        not_false_iff, iff_self, true_iff, iff_true, false_iff, iff_false, ite_self,
        decide_eq_decide, decide_False, decide_True, Bool.not_true, Bool.not_false]
    all_goals omega
  · set_option maxRecDepth 8000 in
    simp only [
        ↓reduceIte, hx, h3, ↓fast_pow.pow_B1_2_1_sem, ↓fast_pow.pow_start_1_sem,
        ↓fast_pow.pow_entry_1_sem, ↓Machine.get_setx, ↓Machine.get_setg,
        ↓Machine.get_setstk, ↓Machine.get_enter, ↓Machine.get_setFlags,
        ↓Machine.trace_set, ↓Machine.get_ite, ↓Machine.trace_ite, ↓Machine.obs_eq_get,
        ↓Machine.flags_get, ↓Machine.flags_trace, ↓sem_get_1, ↓sem_get_2, ↓sem_get_3,
        ↓sem_get_4, ↓sem_trace_1, ↓sem_trace_2, ↓sem_trace_3, ↓sem_trace_4, ↓load_const,
        cc_iff, ea, and_imm, and_imm_left, ilog2_lit, or_eq_zero, or_mod32, or_lt_2p31,
        Nat.mod_mod, Nat.zero_or, Nat.or_zero, Nat.sub_zero, Nat.add_mod_right, lane_eq,
        Machine.io_eq_get, Nat.xor_self, Loc.x.injEq, Loc.g.injEq, Loc.m.injEq,
        Bool.toNat_eq_zero, Bool.toNat_eq_one, Nat.reducePow, Nat.reduceMul,
        Nat.reduceMod, Nat.reduceAdd, Nat.reduceSub, Nat.reduceDiv, Nat.reduceEqDiff,
        Nat.reduceLTLE, Nat.reduceLeDiff, Nat.reduceLT, Nat.reduceGT, Nat.reduceOr,
        Nat.reduceXor, reduceCtorEq, Bool.not_eq_true', Bool.not_eq_true,
        decide_eq_true_eq, decide_eq_false_iff_not, Bool.and_eq_true, Bool.or_eq_true,
        bne_iff_ne, beq_iff_eq, ne_eq, Bool.not_eq_false', Bool.not_eq_false, decide_not,
        not_not, Bool.decide_eq_true, Bool.false_eq_true, Bool.true_eq_false,
        not_false_eq_true, not_true_eq_false, and_true, true_and, and_false, false_and,
        or_true, true_or, or_false, false_or, not_true, not_false_iff, iff_self, true_iff,
        iff_true, false_iff, iff_false, ite_self, decide_eq_decide, decide_False,
        decide_True, Bool.not_true, Bool.not_false]
    all_goals omega

theorem fast_pow_pinf_pinf_run (cpu : Cpu) (s : Machine) (hx : s.arg0 = 0x7FF0000000000000)
    (hy : s.arg1 = 0x7FF0000000000000) :
    (fast_pow cpu s).result = 0x7FF0000000000000 := by
  simp only [Machine.io_eq_get, Nat.reducePow] at hx hy
  have h3 : s.get (.x xmm0) / 281474976710656 % 65536 = 32752 := by omega
  rw [
      fast_pow, fast_pow.pow_entry_eq, fast_pow.pow_start_eq, fast_pow.pow_B1_2_eq, if_pos,
      fast_pow.pow_L_2TAG_PACKET_0_0_2_eq, if_pos, fast_pow.pow_L_2TAG_PACKET_6_0_2_eq,
      if_pos, fast_pow.pow_L_2TAG_PACKET_15_0_2_eq, if_neg, if_neg, if_neg,
      fast_pow.pow_L_2TAG_PACKET_20_0_2_eq, if_neg, if_neg, fast_pow.pow_B1_5_eq]
  · set_option maxRecDepth 8000 in
    simp only [
        ↓reduceIte, hx, h3, ↓fast_pow.pow_B1_5_1_sem,
        ↓fast_pow.pow_L_2TAG_PACKET_20_0_2_3_sem,
        ↓fast_pow.pow_L_2TAG_PACKET_20_0_2_2_sem,
        ↓fast_pow.pow_L_2TAG_PACKET_20_0_2_1_sem,
        ↓fast_pow.pow_L_2TAG_PACKET_15_0_2_4_sem,
        ↓fast_pow.pow_L_2TAG_PACKET_15_0_2_3_sem,
        ↓fast_pow.pow_L_2TAG_PACKET_15_0_2_2_sem,
        ↓fast_pow.pow_L_2TAG_PACKET_15_0_2_1_sem, ↓fast_pow.pow_L_2TAG_PACKET_6_0_2_1_sem,
        ↓fast_pow.pow_L_2TAG_PACKET_0_0_2_1_sem, ↓fast_pow.pow_B1_2_1_sem,
        ↓fast_pow.pow_start_1_sem, ↓fast_pow.pow_entry_1_sem, ↓Machine.get_setx,
        ↓Machine.get_setg, ↓Machine.get_setstk, ↓Machine.get_enter, ↓Machine.get_setFlags,
        ↓Machine.trace_set, ↓Machine.get_ite, ↓Machine.trace_ite, ↓Machine.obs_eq_get,
        ↓Machine.flags_get, ↓Machine.flags_trace, ↓sem_get_1, ↓sem_get_2, ↓sem_get_3,
        ↓sem_get_4, ↓sem_trace_1, ↓sem_trace_2, ↓sem_trace_3, ↓sem_trace_4, ↓load_const,
        cc_iff, ea, and_imm, and_imm_left, ilog2_lit, or_eq_zero, or_mod32, or_lt_2p31,
        Nat.mod_mod, Nat.zero_or, Nat.or_zero, Nat.sub_zero, Nat.add_mod_right, lane_eq,
        Machine.io_eq_get, Nat.xor_self, Loc.x.injEq, Loc.g.injEq, Loc.m.injEq,
        Bool.toNat_eq_zero, Bool.toNat_eq_one, Nat.reducePow, Nat.reduceMul,
        Nat.reduceMod, Nat.reduceAdd, Nat.reduceSub, Nat.reduceDiv, Nat.reduceEqDiff,
        Nat.reduceLTLE, Nat.reduceLeDiff, Nat.reduceLT, Nat.reduceGT, Nat.reduceOr,
        Nat.reduceXor, reduceCtorEq, Bool.not_eq_true', Bool.not_eq_true,
        decide_eq_true_eq, decide_eq_false_iff_not, Bool.and_eq_true, Bool.or_eq_true,
        bne_iff_ne, beq_iff_eq, ne_eq, Bool.not_eq_false', Bool.not_eq_false, decide_not,
        not_not, Bool.decide_eq_true, Bool.false_eq_true, Bool.true_eq_false,
        not_false_eq_true, not_true_eq_false, and_true, true_and, and_false, false_and,
        or_true, true_or, or_false, false_or, not_true, not_false_iff, iff_self, true_iff,
        iff_true, false_iff, iff_false, ite_self, decide_eq_decide, decide_False,
        decide_True, Bool.not_true, Bool.not_false]
  · set_option maxRecDepth 8000 in
    simp only [
        ↓reduceIte, hx, h3, ↓fast_pow.pow_L_2TAG_PACKET_20_0_2_2_sem,
        ↓fast_pow.pow_L_2TAG_PACKET_20_0_2_1_sem,
        ↓fast_pow.pow_L_2TAG_PACKET_15_0_2_4_sem,
        ↓fast_pow.pow_L_2TAG_PACKET_15_0_2_3_sem,
        ↓fast_pow.pow_L_2TAG_PACKET_15_0_2_2_sem,
        ↓fast_pow.pow_L_2TAG_PACKET_15_0_2_1_sem, ↓fast_pow.pow_L_2TAG_PACKET_6_0_2_1_sem,
        ↓fast_pow.pow_L_2TAG_PACKET_0_0_2_1_sem, ↓fast_pow.pow_B1_2_1_sem,
        ↓fast_pow.pow_start_1_sem, ↓fast_pow.pow_entry_1_sem, ↓Machine.get_setx,
        ↓Machine.get_setg, ↓Machine.get_setstk, ↓Machine.get_enter, ↓Machine.get_setFlags,
        ↓Machine.trace_set, ↓Machine.get_ite, ↓Machine.trace_ite, ↓Machine.obs_eq_get,
        ↓Machine.flags_get, ↓Machine.flags_trace, ↓sem_get_1, ↓sem_get_2, ↓sem_get_3,
        ↓sem_get_4, ↓sem_trace_1, ↓sem_trace_2, ↓sem_trace_3, ↓sem_trace_4, ↓load_const,
        cc_iff, ea, and_imm, and_imm_left, ilog2_lit, or_eq_zero, or_mod32, or_lt_2p31,
        Nat.mod_mod, Nat.zero_or, Nat.or_zero, Nat.sub_zero, Nat.add_mod_right, lane_eq,
        Machine.io_eq_get, Nat.xor_self, Loc.x.injEq, Loc.g.injEq, Loc.m.injEq,
        Bool.toNat_eq_zero, Bool.toNat_eq_one, Nat.reducePow, Nat.reduceMul,
        Nat.reduceMod, Nat.reduceAdd, Nat.reduceSub, Nat.reduceDiv, Nat.reduceEqDiff,
        Nat.reduceLTLE, Nat.reduceLeDiff, Nat.reduceLT, Nat.reduceGT, Nat.reduceOr,
        Nat.reduceXor, reduceCtorEq, Bool.not_eq_true', Bool.not_eq_true,
        decide_eq_true_eq, decide_eq_false_iff_not, Bool.and_eq_true, Bool.or_eq_true,
        bne_iff_ne, beq_iff_eq, ne_eq, Bool.not_eq_false', Bool.not_eq_false, decide_not,
        not_not, Bool.decide_eq_true, Bool.false_eq_true, Bool.true_eq_false,
        not_false_eq_true, not_true_eq_false, and_true, true_and, and_false, false_and,
        or_true, true_or, or_false, false_or, not_true, not_false_iff, iff_self, true_iff,
        iff_true, false_iff, iff_false, ite_self, decide_eq_decide, decide_False,
        decide_True, Bool.not_true, Bool.not_false]
    all_goals omega
  · set_option maxRecDepth 8000 in
    simp only [
        ↓reduceIte, hx, h3, ↓fast_pow.pow_L_2TAG_PACKET_20_0_2_1_sem,
        ↓fast_pow.pow_L_2TAG_PACKET_15_0_2_4_sem,
        ↓fast_pow.pow_L_2TAG_PACKET_15_0_2_3_sem,
        ↓fast_pow.pow_L_2TAG_PACKET_15_0_2_2_sem,
        ↓fast_pow.pow_L_2TAG_PACKET_15_0_2_1_sem, ↓fast_pow.pow_L_2TAG_PACKET_6_0_2_1_sem,
        ↓fast_pow.pow_L_2TAG_PACKET_0_0_2_1_sem, ↓fast_pow.pow_B1_2_1_sem,
        ↓fast_pow.pow_start_1_sem, ↓fast_pow.pow_entry_1_sem, ↓Machine.get_setx,
        ↓Machine.get_setg, ↓Machine.get_setstk, ↓Machine.get_enter, ↓Machine.get_setFlags,
        ↓Machine.trace_set, ↓Machine.get_ite, ↓Machine.trace_ite, ↓Machine.obs_eq_get,
        ↓Machine.flags_get, ↓Machine.flags_trace, ↓sem_get_1, ↓sem_get_2, ↓sem_get_3,
        ↓sem_get_4, ↓sem_trace_1, ↓sem_trace_2, ↓sem_trace_3, ↓sem_trace_4, ↓load_const,
        cc_iff, ea, and_imm, and_imm_left, ilog2_lit, or_eq_zero, or_mod32, or_lt_2p31,
        Nat.mod_mod, Nat.zero_or, Nat.or_zero, Nat.sub_zero, Nat.add_mod_right, lane_eq,
        Machine.io_eq_get, Nat.xor_self, Loc.x.injEq, Loc.g.injEq, Loc.m.injEq,
        Bool.toNat_eq_zero, Bool.toNat_eq_one, Nat.reducePow, Nat.reduceMul,
        Nat.reduceMod, Nat.reduceAdd, Nat.reduceSub, Nat.reduceDiv, Nat.reduceEqDiff,
        Nat.reduceLTLE, Nat.reduceLeDiff, Nat.reduceLT, Nat.reduceGT, Nat.reduceOr,
        Nat.reduceXor, reduceCtorEq, Bool.not_eq_true', Bool.not_eq_true,
        decide_eq_true_eq, decide_eq_false_iff_not, Bool.and_eq_true, Bool.or_eq_true,
        bne_iff_ne, beq_iff_eq, ne_eq, Bool.not_eq_false', Bool.not_eq_false, decide_not,
        not_not, Bool.decide_eq_true, Bool.false_eq_true, Bool.true_eq_false,
        not_false_eq_true, not_true_eq_false, and_true, true_and, and_false, false_and,
        or_true, true_or, or_false, false_or, not_true, not_false_iff, iff_self, true_iff,
        iff_true, false_iff, iff_false, ite_self, decide_eq_decide, decide_False,
        decide_True, Bool.not_true, Bool.not_false]
    all_goals omega
  · set_option maxRecDepth 8000 in
    simp only [
        ↓reduceIte, hx, h3, ↓fast_pow.pow_L_2TAG_PACKET_15_0_2_3_sem,
        ↓fast_pow.pow_L_2TAG_PACKET_15_0_2_2_sem,
        ↓fast_pow.pow_L_2TAG_PACKET_15_0_2_1_sem, ↓fast_pow.pow_L_2TAG_PACKET_6_0_2_1_sem,
        ↓fast_pow.pow_L_2TAG_PACKET_0_0_2_1_sem, ↓fast_pow.pow_B1_2_1_sem,
        ↓fast_pow.pow_start_1_sem, ↓fast_pow.pow_entry_1_sem, ↓Machine.get_setx,
        ↓Machine.get_setg, ↓Machine.get_setstk, ↓Machine.get_enter, ↓Machine.get_setFlags,
        ↓Machine.trace_set, ↓Machine.get_ite, ↓Machine.trace_ite, ↓Machine.obs_eq_get,
        ↓Machine.flags_get, ↓Machine.flags_trace, ↓sem_get_1, ↓sem_get_2, ↓sem_get_3,
        ↓sem_get_4, ↓sem_trace_1, ↓sem_trace_2, ↓sem_trace_3, ↓sem_trace_4, ↓load_const,
        cc_iff, ea, and_imm, and_imm_left, ilog2_lit, or_eq_zero, or_mod32, or_lt_2p31,
        Nat.mod_mod, Nat.zero_or, Nat.or_zero, Nat.sub_zero, Nat.add_mod_right, lane_eq,
        Machine.io_eq_get, Nat.xor_self, Loc.x.injEq, Loc.g.injEq, Loc.m.injEq,
        Bool.toNat_eq_zero, Bool.toNat_eq_one, Nat.reducePow, Nat.reduceMul,
        Nat.reduceMod, Nat.reduceAdd, Nat.reduceSub, Nat.reduceDiv, Nat.reduceEqDiff,
        Nat.reduceLTLE, Nat.reduceLeDiff, Nat.reduceLT, Nat.reduceGT, Nat.reduceOr,
        Nat.reduceXor, reduceCtorEq, Bool.not_eq_true', Bool.not_eq_true,
        decide_eq_true_eq, decide_eq_false_iff_not, Bool.and_eq_true, Bool.or_eq_true,
        bne_iff_ne, beq_iff_eq, ne_eq, Bool.not_eq_false', Bool.not_eq_false, decide_not,
        not_not, Bool.decide_eq_true, Bool.false_eq_true, Bool.true_eq_false,
        not_false_eq_true, not_true_eq_false, and_true, true_and, and_false, false_and,
        or_true, true_or, or_false, false_or, not_true, not_false_iff, iff_self, true_iff,
        iff_true, false_iff, iff_false, ite_self, decide_eq_decide, decide_False,
        decide_True, Bool.not_true, Bool.not_false]
    all_goals omega
  · set_option maxRecDepth 8000 in
    simp only [
        ↓reduceIte, hx, h3, ↓fast_pow.pow_L_2TAG_PACKET_15_0_2_2_sem,
        ↓fast_pow.pow_L_2TAG_PACKET_15_0_2_1_sem, ↓fast_pow.pow_L_2TAG_PACKET_6_0_2_1_sem,
        ↓fast_pow.pow_L_2TAG_PACKET_0_0_2_1_sem, ↓fast_pow.pow_B1_2_1_sem,
        ↓fast_pow.pow_start_1_sem, ↓fast_pow.pow_entry_1_sem, ↓Machine.get_setx,
        ↓Machine.get_setg, ↓Machine.get_setstk, ↓Machine.get_enter, ↓Machine.get_setFlags,
        ↓Machine.trace_set, ↓Machine.get_ite, ↓Machine.trace_ite, ↓Machine.obs_eq_get,
        ↓Machine.flags_get, ↓Machine.flags_trace, ↓sem_get_1, ↓sem_get_2, ↓sem_get_3,
        ↓sem_get_4, ↓sem_trace_1, ↓sem_trace_2, ↓sem_trace_3, ↓sem_trace_4, ↓load_const,
        cc_iff, ea, and_imm, and_imm_left, ilog2_lit, or_eq_zero, or_mod32, or_lt_2p31,
        Nat.mod_mod, Nat.zero_or, Nat.or_zero, Nat.sub_zero, Nat.add_mod_right, lane_eq,
        Machine.io_eq_get, Nat.xor_self, Loc.x.injEq, Loc.g.injEq, Loc.m.injEq,
        Bool.toNat_eq_zero, Bool.toNat_eq_one, Nat.reducePow, Nat.reduceMul,
        Nat.reduceMod, Nat.reduceAdd, Nat.reduceSub, Nat.reduceDiv, Nat.reduceEqDiff,
        Nat.reduceLTLE, Nat.reduceLeDiff, Nat.reduceLT, Nat.reduceGT, Nat.reduceOr,
        Nat.reduceXor, reduceCtorEq, Bool.not_eq_true', Bool.not_eq_true,
        decide_eq_true_eq, decide_eq_false_iff_not, Bool.and_eq_true, Bool.or_eq_true,
        bne_iff_ne, beq_iff_eq, ne_eq, Bool.not_eq_false', Bool.not_eq_false, decide_not,
        not_not, Bool.decide_eq_true, Bool.false_eq_true, Bool.true_eq_false,
        not_false_eq_true, not_true_eq_false, and_true, true_and, and_false, false_and,
        or_true, true_or, or_false, false_or, not_true, not_false_iff, iff_self, true_iff,
        iff_true, false_iff, iff_false, ite_self, decide_eq_decide, decide_False,
        decide_True, Bool.not_true, Bool.not_false]
    all_goals omega
  · set_option maxRecDepth 8000 in
    simp only [
        ↓reduceIte, hx, h3, ↓fast_pow.pow_L_2TAG_PACKET_15_0_2_1_sem,
        ↓fast_pow.pow_L_2TAG_PACKET_6_0_2_1_sem, ↓fast_pow.pow_L_2TAG_PACKET_0_0_2_1_sem,
        ↓fast_pow.pow_B1_2_1_sem, ↓fast_pow.pow_start_1_sem, ↓fast_pow.pow_entry_1_sem,
        ↓Machine.get_setx, ↓Machine.get_setg, ↓Machine.get_setstk, ↓Machine.get_enter,
        ↓Machine.get_setFlags, ↓Machine.trace_set, ↓Machine.get_ite, ↓Machine.trace_ite,
        ↓Machine.obs_eq_get, ↓Machine.flags_get, ↓Machine.flags_trace, ↓sem_get_1,
        ↓sem_get_2, ↓sem_get_3, ↓sem_get_4, ↓sem_trace_1, ↓sem_trace_2, ↓sem_trace_3,
        ↓sem_trace_4, ↓load_const, cc_iff, ea, and_imm, and_imm_left, ilog2_lit,
        or_eq_zero, or_mod32, or_lt_2p31, Nat.mod_mod, Nat.zero_or, Nat.or_zero,
        Nat.sub_zero, Nat.add_mod_right, lane_eq, Machine.io_eq_get, Nat.xor_self,
        Loc.x.injEq, Loc.g.injEq, Loc.m.injEq, Bool.toNat_eq_zero, Bool.toNat_eq_one,
        Nat.reducePow, Nat.reduceMul, Nat.reduceMod, Nat.reduceAdd, Nat.reduceSub,
        Nat.reduceDiv, Nat.reduceEqDiff, Nat.reduceLTLE, Nat.reduceLeDiff, Nat.reduceLT,
        Nat.reduceGT, Nat.reduceOr, Nat.reduceXor, reduceCtorEq, Bool.not_eq_true',
        Bool.not_eq_true, decide_eq_true_eq, decide_eq_false_iff_not, Bool.and_eq_true,
        Bool.or_eq_true, bne_iff_ne, beq_iff_eq, ne_eq, Bool.not_eq_false',
        Bool.not_eq_false, decide_not, not_not, Bool.decide_eq_true, Bool.false_eq_true,
        Bool.true_eq_false, not_false_eq_true, not_true_eq_false, and_true, true_and,
        and_false, false_and, or_true, true_or, or_false, false_or, not_true,
        not_false_iff, iff_self, true_iff, iff_true, false_iff, iff_false, ite_self,
        decide_eq_decide, decide_False, decide_True, Bool.not_true, Bool.not_false]
    all_goals omega
  · set_option maxRecDepth 8000 in
    simp only [
        ↓reduceIte, hx, h3, ↓fast_pow.pow_L_2TAG_PACKET_6_0_2_1_sem,
        ↓fast_pow.pow_L_2TAG_PACKET_0_0_2_1_sem, ↓fast_pow.pow_B1_2_1_sem,
        ↓fast_pow.pow_start_1_sem, ↓fast_pow.pow_entry_1_sem, ↓Machine.get_setx,
        ↓Machine.get_setg, ↓Machine.get_setstk, ↓Machine.get_enter, ↓Machine.get_setFlags,
        ↓Machine.trace_set, ↓Machine.get_ite, ↓Machine.trace_ite, ↓Machine.obs_eq_get,
        ↓Machine.flags_get, ↓Machine.flags_trace, ↓sem_get_1, ↓sem_get_2, ↓sem_get_3,
        ↓sem_get_4, ↓sem_trace_1, ↓sem_trace_2, ↓sem_trace_3, ↓sem_trace_4, ↓load_const,
        cc_iff, ea, and_imm, and_imm_left, ilog2_lit, or_eq_zero, or_mod32, or_lt_2p31,
        Nat.mod_mod, Nat.zero_or, Nat.or_zero, Nat.sub_zero, Nat.add_mod_right, lane_eq,
        Machine.io_eq_get, Nat.xor_self, Loc.x.injEq, Loc.g.injEq, Loc.m.injEq,
        Bool.toNat_eq_zero, Bool.toNat_eq_one, Nat.reducePow, Nat.reduceMul,
        Nat.reduceMod, Nat.reduceAdd, Nat.reduceSub, Nat.reduceDiv, Nat.reduceEqDiff,
        Nat.reduceLTLE, Nat.reduceLeDiff, Nat.reduceLT, Nat.reduceGT, Nat.reduceOr,
        Nat.reduceXor, reduceCtorEq, Bool.not_eq_true', Bool.not_eq_true,
        decide_eq_true_eq, decide_eq_false_iff_not, Bool.and_eq_true, Bool.or_eq_true,
        bne_iff_ne, beq_iff_eq, ne_eq, Bool.not_eq_false', Bool.not_eq_false, decide_not,
        not_not, Bool.decide_eq_true, Bool.false_eq_true, Bool.true_eq_false,
        not_false_eq_true, not_true_eq_false, and_true, true_and, and_false, false_and,
        or_true, true_or, or_false, false_or, not_true, not_false_iff, iff_self, true_iff,
        iff_true, false_iff, iff_false, ite_self, decide_eq_decide, decide_False,
        decide_True, Bool.not_true, Bool.not_false]
    all_goals omega
  · set_option maxRecDepth 8000 in
    simp only [
        ↓reduceIte, hx, h3, ↓fast_pow.pow_L_2TAG_PACKET_0_0_2_1_sem,
        ↓fast_pow.pow_B1_2_1_sem, ↓fast_pow.pow_start_1_sem, ↓fast_pow.pow_entry_1_sem,
        ↓Machine.get_setx, ↓Machine.get_setg, ↓Machine.get_setstk, ↓Machine.get_enter,
        ↓Machine.get_setFlags, ↓Machine.trace_set, ↓Machine.get_ite, ↓Machine.trace_ite,
        ↓Machine.obs_eq_get, ↓Machine.flags_get, ↓Machine.flags_trace, ↓sem_get_1,
        ↓sem_get_2, ↓sem_get_3, ↓sem_get_4, ↓sem_trace_1, ↓sem_trace_2, ↓sem_trace_3,
        ↓sem_trace_4, ↓load_const, cc_iff, ea, and_imm, and_imm_left, ilog2_lit,
        or_eq_zero, or_mod32, or_lt_2p31, Nat.mod_mod, Nat.zero_or, Nat.or_zero,
        Nat.sub_zero, Nat.add_mod_right, lane_eq, Machine.io_eq_get, Nat.xor_self,
        Loc.x.injEq, Loc.g.injEq, Loc.m.injEq, Bool.toNat_eq_zero, Bool.toNat_eq_one,
        Nat.reducePow, Nat.reduceMul, Nat.reduceMod, Nat.reduceAdd, Nat.reduceSub,
        Nat.reduceDiv, Nat.reduceEqDiff, Nat.reduceLTLE, Nat.reduceLeDiff, Nat.reduceLT,
        Nat.reduceGT, Nat.reduceOr, Nat.reduceXor, reduceCtorEq, Bool.not_eq_true',
        Bool.not_eq_true, decide_eq_true_eq, decide_eq_false_iff_not, Bool.and_eq_true,
        Bool.or_eq_true, bne_iff_ne, beq_iff_eq, ne_eq, Bool.not_eq_false',
        Bool.not_eq_false, decide_not, not_not, Bool.decide_eq_true, Bool.false_eq_true,
        Bool.true_eq_false, not_false_eq_true, not_true_eq_false, and_true, true_and,
        and_false, false_and, or_true, true_or, or_false, false_or, not_true,
        not_false_iff, iff_self, true_iff, iff_true, false_iff, iff_false, ite_self,
        decide_eq_decide, decide_False, decide_True, Bool.not_true, Bool.not_false]
    all_goals omega
  · set_option maxRecDepth 8000 in
    simp only [
        ↓reduceIte, hx, h3, ↓fast_pow.pow_B1_2_1_sem, ↓fast_pow.pow_start_1_sem,
        ↓fast_pow.pow_entry_1_sem, ↓Machine.get_setx, ↓Machine.get_setg,
        ↓Machine.get_setstk, ↓Machine.get_enter, ↓Machine.get_setFlags,
        ↓Machine.trace_set, ↓Machine.get_ite, ↓Machine.trace_ite, ↓Machine.obs_eq_get,
        ↓Machine.flags_get, ↓Machine.flags_trace, ↓sem_get_1, ↓sem_get_2, ↓sem_get_3,
        ↓sem_get_4, ↓sem_trace_1, ↓sem_trace_2, ↓sem_trace_3, ↓sem_trace_4, ↓load_const,
        cc_iff, ea, and_imm, and_imm_left, ilog2_lit, or_eq_zero, or_mod32, or_lt_2p31,
        Nat.mod_mod, Nat.zero_or, Nat.or_zero, Nat.sub_zero, Nat.add_mod_right, lane_eq,
        Machine.io_eq_get, Nat.xor_self, Loc.x.injEq, Loc.g.injEq, Loc.m.injEq,
        Bool.toNat_eq_zero, Bool.toNat_eq_one, Nat.reducePow, Nat.reduceMul,
        Nat.reduceMod, Nat.reduceAdd, Nat.reduceSub, Nat.reduceDiv, Nat.reduceEqDiff,
        Nat.reduceLTLE, Nat.reduceLeDiff, Nat.reduceLT, Nat.reduceGT, Nat.reduceOr,
        Nat.reduceXor, reduceCtorEq, Bool.not_eq_true', Bool.not_eq_true,
        decide_eq_true_eq, decide_eq_false_iff_not, Bool.and_eq_true, Bool.or_eq_true,
        bne_iff_ne, beq_iff_eq, ne_eq, Bool.not_eq_false', Bool.not_eq_false, decide_not,
        not_not, Bool.decide_eq_true, Bool.false_eq_true, Bool.true_eq_false,
        not_false_eq_true, not_true_eq_false, and_true, true_and, and_false, false_and,
        or_true, true_or, or_false, false_or, not_true, not_false_iff, iff_self, true_iff,
        iff_true, false_iff, iff_false, ite_self, decide_eq_decide, decide_False,
        decide_True, Bool.not_true, Bool.not_false]
    all_goals omega

theorem fast_pow_pinf_neg_run (cpu : Cpu) (s : Machine) (hx : s.arg0 = 0x7FF0000000000000)
    (h1 : 0x8000000000000000 < s.arg1) (h2 : s.arg1 < 0xFFF0000000000000) :
    (fast_pow cpu s).result = 0 := by
  simp only [Machine.io_eq_get, Nat.reducePow] at hx h1 h2
  have h3 : s.get (.x xmm0) / 281474976710656 % 65536 = 32752 := by omega
  rw [
      fast_pow, fast_pow.pow_entry_eq, fast_pow.pow_start_eq, fast_pow.pow_B1_2_eq, if_pos,
      fast_pow.pow_L_2TAG_PACKET_0_0_2_eq, if_pos, fast_pow.pow_L_2TAG_PACKET_6_0_2_eq,
      if_pos, fast_pow.pow_L_2TAG_PACKET_15_0_2_eq, if_neg, if_pos,
      fast_pow.pow_L_2TAG_PACKET_20_0_2_eq, if_neg, if_pos,
      fast_pow.pow_L_2TAG_PACKET_22_0_2_eq, fast_pow.pow_B1_5_eq]
  · set_option maxRecDepth 8000 in
    simp only [
        ↓reduceIte, hx, h3, ↓fast_pow.pow_B1_5_1_sem,
        ↓fast_pow.pow_L_2TAG_PACKET_22_0_2_1_sem,
        ↓fast_pow.pow_L_2TAG_PACKET_20_0_2_2_sem,
        ↓fast_pow.pow_L_2TAG_PACKET_20_0_2_1_sem,
        ↓fast_pow.pow_L_2TAG_PACKET_15_0_2_2_sem,
        ↓fast_pow.pow_L_2TAG_PACKET_15_0_2_1_sem, ↓fast_pow.pow_L_2TAG_PACKET_6_0_2_1_sem,
        ↓fast_pow.pow_L_2TAG_PACKET_0_0_2_1_sem, ↓fast_pow.pow_B1_2_1_sem,
        ↓fast_pow.pow_start_1_sem, ↓fast_pow.pow_entry_1_sem, ↓Machine.get_setx,
        ↓Machine.get_setg, ↓Machine.get_setstk, ↓Machine.get_enter, ↓Machine.get_setFlags,
        ↓Machine.trace_set, ↓Machine.get_ite, ↓Machine.trace_ite, ↓Machine.obs_eq_get,
        ↓Machine.flags_get, ↓Machine.flags_trace, ↓sem_get_1, ↓sem_get_2, ↓sem_get_3,
        ↓sem_get_4, ↓sem_trace_1, ↓sem_trace_2, ↓sem_trace_3, ↓sem_trace_4, ↓load_const,
        cc_iff, ea, and_imm, and_imm_left, ilog2_lit, or_eq_zero, or_mod32, or_lt_2p31,
        Nat.mod_mod, Nat.zero_or, Nat.or_zero, Nat.sub_zero, Nat.add_mod_right, lane_eq,
        Machine.io_eq_get, Nat.xor_self, Loc.x.injEq, Loc.g.injEq, Loc.m.injEq,
        Bool.toNat_eq_zero, Bool.toNat_eq_one, Nat.reducePow, Nat.reduceMul,
        Nat.reduceMod, Nat.reduceAdd, Nat.reduceSub, Nat.reduceDiv, Nat.reduceEqDiff,
        Nat.reduceLTLE, Nat.reduceLeDiff, Nat.reduceLT, Nat.reduceGT, Nat.reduceOr,
        Nat.reduceXor, reduceCtorEq, Bool.not_eq_true', Bool.not_eq_true,
        decide_eq_true_eq, decide_eq_false_iff_not, Bool.and_eq_true, Bool.or_eq_true,
        bne_iff_ne, beq_iff_eq, ne_eq, Bool.not_eq_false', Bool.not_eq_false, decide_not,
        not_not, Bool.decide_eq_true, Bool.false_eq_true, Bool.true_eq_false,
        not_false_eq_true, not_true_eq_false, and_true, true_and, and_false, false_and,
        or_true, true_or, or_false, false_or, not_true, not_false_iff, iff_self, true_iff,
        iff_true, false_iff, iff_false, ite_self, decide_eq_decide, decide_False,
        decide_True, Bool.not_true, Bool.not_false]
  · set_option maxRecDepth 8000 in
    simp only [
        ↓reduceIte, hx, h3, ↓fast_pow.pow_L_2TAG_PACKET_20_0_2_2_sem,
        ↓fast_pow.pow_L_2TAG_PACKET_20_0_2_1_sem,
        ↓fast_pow.pow_L_2TAG_PACKET_15_0_2_2_sem,
        ↓fast_pow.pow_L_2TAG_PACKET_15_0_2_1_sem, ↓fast_pow.pow_L_2TAG_PACKET_6_0_2_1_sem,
        ↓fast_pow.pow_L_2TAG_PACKET_0_0_2_1_sem, ↓fast_pow.pow_B1_2_1_sem,
        ↓fast_pow.pow_start_1_sem, ↓fast_pow.pow_entry_1_sem, ↓Machine.get_setx,
        ↓Machine.get_setg, ↓Machine.get_setstk, ↓Machine.get_enter, ↓Machine.get_setFlags,
        ↓Machine.trace_set, ↓Machine.get_ite, ↓Machine.trace_ite, ↓Machine.obs_eq_get,
        ↓Machine.flags_get, ↓Machine.flags_trace, ↓sem_get_1, ↓sem_get_2, ↓sem_get_3,
        ↓sem_get_4, ↓sem_trace_1, ↓sem_trace_2, ↓sem_trace_3, ↓sem_trace_4, ↓load_const,
        cc_iff, ea, and_imm, and_imm_left, ilog2_lit, or_eq_zero, or_mod32, or_lt_2p31,
        Nat.mod_mod, Nat.zero_or, Nat.or_zero, Nat.sub_zero, Nat.add_mod_right, lane_eq,
        Machine.io_eq_get, Nat.xor_self, Loc.x.injEq, Loc.g.injEq, Loc.m.injEq,
        Bool.toNat_eq_zero, Bool.toNat_eq_one, Nat.reducePow, Nat.reduceMul,
        Nat.reduceMod, Nat.reduceAdd, Nat.reduceSub, Nat.reduceDiv, Nat.reduceEqDiff,
        Nat.reduceLTLE, Nat.reduceLeDiff, Nat.reduceLT, Nat.reduceGT, Nat.reduceOr,
        Nat.reduceXor, reduceCtorEq, Bool.not_eq_true', Bool.not_eq_true,
        decide_eq_true_eq, decide_eq_false_iff_not, Bool.and_eq_true, Bool.or_eq_true,
        bne_iff_ne, beq_iff_eq, ne_eq, Bool.not_eq_false', Bool.not_eq_false, decide_not,
        not_not, Bool.decide_eq_true, Bool.false_eq_true, Bool.true_eq_false,
        not_false_eq_true, not_true_eq_false, and_true, true_and, and_false, false_and,
        or_true, true_or, or_false, false_or, not_true, not_false_iff, iff_self, true_iff,
        iff_true, false_iff, iff_false, ite_self, decide_eq_decide, decide_False,
        decide_True, Bool.not_true, Bool.not_false]
    all_goals omega
  · set_option maxRecDepth 8000 in
    simp only [
        ↓reduceIte, hx, h3, ↓fast_pow.pow_L_2TAG_PACKET_20_0_2_1_sem,
        ↓fast_pow.pow_L_2TAG_PACKET_15_0_2_2_sem,
        ↓fast_pow.pow_L_2TAG_PACKET_15_0_2_1_sem, ↓fast_pow.pow_L_2TAG_PACKET_6_0_2_1_sem,
        ↓fast_pow.pow_L_2TAG_PACKET_0_0_2_1_sem, ↓fast_pow.pow_B1_2_1_sem,
        ↓fast_pow.pow_start_1_sem, ↓fast_pow.pow_entry_1_sem, ↓Machine.get_setx,
        ↓Machine.get_setg, ↓Machine.get_setstk, ↓Machine.get_enter, ↓Machine.get_setFlags,
        ↓Machine.trace_set, ↓Machine.get_ite, ↓Machine.trace_ite, ↓Machine.obs_eq_get,
        ↓Machine.flags_get, ↓Machine.flags_trace, ↓sem_get_1, ↓sem_get_2, ↓sem_get_3,
        ↓sem_get_4, ↓sem_trace_1, ↓sem_trace_2, ↓sem_trace_3, ↓sem_trace_4, ↓load_const,
        cc_iff, ea, and_imm, and_imm_left, ilog2_lit, or_eq_zero, or_mod32, or_lt_2p31,
        Nat.mod_mod, Nat.zero_or, Nat.or_zero, Nat.sub_zero, Nat.add_mod_right, lane_eq,
        Machine.io_eq_get, Nat.xor_self, Loc.x.injEq, Loc.g.injEq, Loc.m.injEq,
        Bool.toNat_eq_zero, Bool.toNat_eq_one, Nat.reducePow, Nat.reduceMul,
        Nat.reduceMod, Nat.reduceAdd, Nat.reduceSub, Nat.reduceDiv, Nat.reduceEqDiff,
        Nat.reduceLTLE, Nat.reduceLeDiff, Nat.reduceLT, Nat.reduceGT, Nat.reduceOr,
        Nat.reduceXor, reduceCtorEq, Bool.not_eq_true', Bool.not_eq_true,
        decide_eq_true_eq, decide_eq_false_iff_not, Bool.and_eq_true, Bool.or_eq_true,
        bne_iff_ne, beq_iff_eq, ne_eq, Bool.not_eq_false', Bool.not_eq_false, decide_not,
        not_not, Bool.decide_eq_true, Bool.false_eq_true, Bool.true_eq_false,
        not_false_eq_true, not_true_eq_false, and_true, true_and, and_false, false_and,
        or_true, true_or, or_false, false_or, not_true, not_false_iff, iff_self, true_iff,
        iff_true, false_iff, iff_false, ite_self, decide_eq_decide, decide_False,
        decide_True, Bool.not_true, Bool.not_false]
    all_goals omega
  · set_option maxRecDepth 8000 in
    simp only [
        ↓reduceIte, hx, h3, ↓fast_pow.pow_L_2TAG_PACKET_15_0_2_2_sem,
        ↓fast_pow.pow_L_2TAG_PACKET_15_0_2_1_sem, ↓fast_pow.pow_L_2TAG_PACKET_6_0_2_1_sem,
        ↓fast_pow.pow_L_2TAG_PACKET_0_0_2_1_sem, ↓fast_pow.pow_B1_2_1_sem,
        ↓fast_pow.pow_start_1_sem, ↓fast_pow.pow_entry_1_sem, ↓Machine.get_setx,
        ↓Machine.get_setg, ↓Machine.get_setstk, ↓Machine.get_enter, ↓Machine.get_setFlags,
        ↓Machine.trace_set, ↓Machine.get_ite, ↓Machine.trace_ite, ↓Machine.obs_eq_get,
        ↓Machine.flags_get, ↓Machine.flags_trace, ↓sem_get_1, ↓sem_get_2, ↓sem_get_3,
        ↓sem_get_4, ↓sem_trace_1, ↓sem_trace_2, ↓sem_trace_3, ↓sem_trace_4, ↓load_const,
        cc_iff, ea, and_imm, and_imm_left, ilog2_lit, or_eq_zero, or_mod32, or_lt_2p31,
        Nat.mod_mod, Nat.zero_or, Nat.or_zero, Nat.sub_zero, Nat.add_mod_right, lane_eq,
        Machine.io_eq_get, Nat.xor_self, Loc.x.injEq, Loc.g.injEq, Loc.m.injEq,
        Bool.toNat_eq_zero, Bool.toNat_eq_one, Nat.reducePow, Nat.reduceMul,
        Nat.reduceMod, Nat.reduceAdd, Nat.reduceSub, Nat.reduceDiv, Nat.reduceEqDiff,
        Nat.reduceLTLE, Nat.reduceLeDiff, Nat.reduceLT, Nat.reduceGT, Nat.reduceOr,
        Nat.reduceXor, reduceCtorEq, Bool.not_eq_true', Bool.not_eq_true,
        decide_eq_true_eq, decide_eq_false_iff_not, Bool.and_eq_true, Bool.or_eq_true,
        bne_iff_ne, beq_iff_eq, ne_eq, Bool.not_eq_false', Bool.not_eq_false, decide_not,
        not_not, Bool.decide_eq_true, Bool.false_eq_true, Bool.true_eq_false,
        not_false_eq_true, not_true_eq_false, and_true, true_and, and_false, false_and,
        or_true, true_or, or_false, false_or, not_true, not_false_iff, iff_self, true_iff,
        iff_true, false_iff, iff_false, ite_self, decide_eq_decide, decide_False,
        decide_True, Bool.not_true, Bool.not_false]
    all_goals omega
  · set_option maxRecDepth 8000 in
    simp only [
        ↓reduceIte, hx, h3, ↓fast_pow.pow_L_2TAG_PACKET_15_0_2_1_sem,
        ↓fast_pow.pow_L_2TAG_PACKET_6_0_2_1_sem, ↓fast_pow.pow_L_2TAG_PACKET_0_0_2_1_sem,
        ↓fast_pow.pow_B1_2_1_sem, ↓fast_pow.pow_start_1_sem, ↓fast_pow.pow_entry_1_sem,
        ↓Machine.get_setx, ↓Machine.get_setg, ↓Machine.get_setstk, ↓Machine.get_enter,
        ↓Machine.get_setFlags, ↓Machine.trace_set, ↓Machine.get_ite, ↓Machine.trace_ite,
        ↓Machine.obs_eq_get, ↓Machine.flags_get, ↓Machine.flags_trace, ↓sem_get_1,
        ↓sem_get_2, ↓sem_get_3, ↓sem_get_4, ↓sem_trace_1, ↓sem_trace_2, ↓sem_trace_3,
        ↓sem_trace_4, ↓load_const, cc_iff, ea, and_imm, and_imm_left, ilog2_lit,
        or_eq_zero, or_mod32, or_lt_2p31, Nat.mod_mod, Nat.zero_or, Nat.or_zero,
        Nat.sub_zero, Nat.add_mod_right, lane_eq, Machine.io_eq_get, Nat.xor_self,
        Loc.x.injEq, Loc.g.injEq, Loc.m.injEq, Bool.toNat_eq_zero, Bool.toNat_eq_one,
        Nat.reducePow, Nat.reduceMul, Nat.reduceMod, Nat.reduceAdd, Nat.reduceSub,
        Nat.reduceDiv, Nat.reduceEqDiff, Nat.reduceLTLE, Nat.reduceLeDiff, Nat.reduceLT,
        Nat.reduceGT, Nat.reduceOr, Nat.reduceXor, reduceCtorEq, Bool.not_eq_true',
        Bool.not_eq_true, decide_eq_true_eq, decide_eq_false_iff_not, Bool.and_eq_true,
        Bool.or_eq_true, bne_iff_ne, beq_iff_eq, ne_eq, Bool.not_eq_false',
        Bool.not_eq_false, decide_not, not_not, Bool.decide_eq_true, Bool.false_eq_true,
        Bool.true_eq_false, not_false_eq_true, not_true_eq_false, and_true, true_and,
        and_false, false_and, or_true, true_or, or_false, false_or, not_true,
        not_false_iff, iff_self, true_iff, iff_true, false_iff, iff_false, ite_self,
        decide_eq_decide, decide_False, decide_True, Bool.not_true, Bool.not_false]
    all_goals omega
  · set_option maxRecDepth 8000 in
    simp only [
        ↓reduceIte, hx, h3, ↓fast_pow.pow_L_2TAG_PACKET_6_0_2_1_sem,
        ↓fast_pow.pow_L_2TAG_PACKET_0_0_2_1_sem, ↓fast_pow.pow_B1_2_1_sem,
        ↓fast_pow.pow_start_1_sem, ↓fast_pow.pow_entry_1_sem, ↓Machine.get_setx,
        ↓Machine.get_setg, ↓Machine.get_setstk, ↓Machine.get_enter, ↓Machine.get_setFlags,
        ↓Machine.trace_set, ↓Machine.get_ite, ↓Machine.trace_ite, ↓Machine.obs_eq_get,
        ↓Machine.flags_get, ↓Machine.flags_trace, ↓sem_get_1, ↓sem_get_2, ↓sem_get_3,
        ↓sem_get_4, ↓sem_trace_1, ↓sem_trace_2, ↓sem_trace_3, ↓sem_trace_4, ↓load_const,
        cc_iff, ea, and_imm, and_imm_left, ilog2_lit, or_eq_zero, or_mod32, or_lt_2p31,
        Nat.mod_mod, Nat.zero_or, Nat.or_zero, Nat.sub_zero, Nat.add_mod_right, lane_eq,
        Machine.io_eq_get, Nat.xor_self, Loc.x.injEq, Loc.g.injEq, Loc.m.injEq,
        Bool.toNat_eq_zero, Bool.toNat_eq_one, Nat.reducePow, Nat.reduceMul,
        Nat.reduceMod, Nat.reduceAdd, Nat.reduceSub, Nat.reduceDiv, Nat.reduceEqDiff,
        Nat.reduceLTLE, Nat.reduceLeDiff, Nat.reduceLT, Nat.reduceGT, Nat.reduceOr,
        Nat.reduceXor, reduceCtorEq, Bool.not_eq_true', Bool.not_eq_true,
        decide_eq_true_eq, decide_eq_false_iff_not, Bool.and_eq_true, Bool.or_eq_true,
        bne_iff_ne, beq_iff_eq, ne_eq, Bool.not_eq_false', Bool.not_eq_false, decide_not,
        not_not, Bool.decide_eq_true, Bool.false_eq_true, Bool.true_eq_false,
        not_false_eq_true, not_true_eq_false, and_true, true_and, and_false, false_and,
        or_true, true_or, or_false, false_or, not_true, not_false_iff, iff_self, true_iff,
        iff_true, false_iff, iff_false, ite_self, decide_eq_decide, decide_False,
        decide_True, Bool.not_true, Bool.not_false]
    all_goals omega
  · set_option maxRecDepth 8000 in
    simp only [
        ↓reduceIte, hx, h3, ↓fast_pow.pow_L_2TAG_PACKET_0_0_2_1_sem,
        ↓fast_pow.pow_B1_2_1_sem, ↓fast_pow.pow_start_1_sem, ↓fast_pow.pow_entry_1_sem,
        ↓Machine.get_setx, ↓Machine.get_setg, ↓Machine.get_setstk, ↓Machine.get_enter,
        ↓Machine.get_setFlags, ↓Machine.trace_set, ↓Machine.get_ite, ↓Machine.trace_ite,
        ↓Machine.obs_eq_get, ↓Machine.flags_get, ↓Machine.flags_trace, ↓sem_get_1,
        ↓sem_get_2, ↓sem_get_3, ↓sem_get_4, ↓sem_trace_1, ↓sem_trace_2, ↓sem_trace_3,
        ↓sem_trace_4, ↓load_const, cc_iff, ea, and_imm, and_imm_left, ilog2_lit,
        or_eq_zero, or_mod32, or_lt_2p31, Nat.mod_mod, Nat.zero_or, Nat.or_zero,
        Nat.sub_zero, Nat.add_mod_right, lane_eq, Machine.io_eq_get, Nat.xor_self,
        Loc.x.injEq, Loc.g.injEq, Loc.m.injEq, Bool.toNat_eq_zero, Bool.toNat_eq_one,
        Nat.reducePow, Nat.reduceMul, Nat.reduceMod, Nat.reduceAdd, Nat.reduceSub,
        Nat.reduceDiv, Nat.reduceEqDiff, Nat.reduceLTLE, Nat.reduceLeDiff, Nat.reduceLT,
        Nat.reduceGT, Nat.reduceOr, Nat.reduceXor, reduceCtorEq, Bool.not_eq_true',
        Bool.not_eq_true, decide_eq_true_eq, decide_eq_false_iff_not, Bool.and_eq_true,
        Bool.or_eq_true, bne_iff_ne, beq_iff_eq, ne_eq, Bool.not_eq_false',
        Bool.not_eq_false, decide_not, not_not, Bool.decide_eq_true, Bool.false_eq_true,
        Bool.true_eq_false, not_false_eq_true, not_true_eq_false, and_true, true_and,
        and_false, false_and, or_true, true_or, or_false, false_or, not_true,
        not_false_iff, iff_self, true_iff, iff_true, false_iff, iff_false, ite_self,
        decide_eq_decide, decide_False, decide_True, Bool.not_true, Bool.not_false]
    all_goals omega
  · set_option maxRecDepth 8000 in
    simp only [
        ↓reduceIte, hx, h3, ↓fast_pow.pow_B1_2_1_sem, ↓fast_pow.pow_start_1_sem,
        ↓fast_pow.pow_entry_1_sem, ↓Machine.get_setx, ↓Machine.get_setg,
        ↓Machine.get_setstk, ↓Machine.get_enter, ↓Machine.get_setFlags,
        ↓Machine.trace_set, ↓Machine.get_ite, ↓Machine.trace_ite, ↓Machine.obs_eq_get,
        ↓Machine.flags_get, ↓Machine.flags_trace, ↓sem_get_1, ↓sem_get_2, ↓sem_get_3,
        ↓sem_get_4, ↓sem_trace_1, ↓sem_trace_2, ↓sem_trace_3, ↓sem_trace_4, ↓load_const,
        cc_iff, ea, and_imm, and_imm_left, ilog2_lit, or_eq_zero, or_mod32, or_lt_2p31,
        Nat.mod_mod, Nat.zero_or, Nat.or_zero, Nat.sub_zero, Nat.add_mod_right, lane_eq,
        Machine.io_eq_get, Nat.xor_self, Loc.x.injEq, Loc.g.injEq, Loc.m.injEq,
        Bool.toNat_eq_zero, Bool.toNat_eq_one, Nat.reducePow, Nat.reduceMul,
        Nat.reduceMod, Nat.reduceAdd, Nat.reduceSub, Nat.reduceDiv, Nat.reduceEqDiff,
        Nat.reduceLTLE, Nat.reduceLeDiff, Nat.reduceLT, Nat.reduceGT, Nat.reduceOr,
        Nat.reduceXor, reduceCtorEq, Bool.not_eq_true', Bool.not_eq_true,
        decide_eq_true_eq, decide_eq_false_iff_not, Bool.and_eq_true, Bool.or_eq_true,
        bne_iff_ne, beq_iff_eq, ne_eq, Bool.not_eq_false', Bool.not_eq_false, decide_not,
        not_not, Bool.decide_eq_true, Bool.false_eq_true, Bool.true_eq_false,
        not_false_eq_true, not_true_eq_false, and_true, true_and, and_false, false_and,
        or_true, true_or, or_false, false_or, not_true, not_false_iff, iff_self, true_iff,
        iff_true, false_iff, iff_false, ite_self, decide_eq_decide, decide_False,
        decide_True, Bool.not_true, Bool.not_false]
    all_goals omega

theorem fast_pow_pinf_ninf_run (cpu : Cpu) (s : Machine) (hx : s.arg0 = 0x7FF0000000000000)
    (hy : s.arg1 = 0xFFF0000000000000) :
    (fast_pow cpu s).result = 0 := by
  simp only [Machine.io_eq_get, Nat.reducePow] at hx hy
  have h3 : s.get (.x xmm0) / 281474976710656 % 65536 = 32752 := by omega
  rw [
      fast_pow, fast_pow.pow_entry_eq, fast_pow.pow_start_eq, fast_pow.pow_B1_2_eq, if_pos,
      fast_pow.pow_L_2TAG_PACKET_0_0_2_eq, if_pos, fast_pow.pow_L_2TAG_PACKET_6_0_2_eq,
      if_pos, fast_pow.pow_L_2TAG_PACKET_15_0_2_eq, if_neg, if_neg, if_neg,
      fast_pow.pow_L_2TAG_PACKET_20_0_2_eq, if_neg, if_pos,
      fast_pow.pow_L_2TAG_PACKET_22_0_2_eq, fast_pow.pow_B1_5_eq]
  · set_option maxRecDepth 8000 in
    simp only [
        ↓reduceIte, hx, h3, ↓fast_pow.pow_B1_5_1_sem,
        ↓fast_pow.pow_L_2TAG_PACKET_22_0_2_1_sem,
        ↓fast_pow.pow_L_2TAG_PACKET_20_0_2_2_sem,
        ↓fast_pow.pow_L_2TAG_PACKET_20_0_2_1_sem,
        ↓fast_pow.pow_L_2TAG_PACKET_15_0_2_4_sem,
        ↓fast_pow.pow_L_2TAG_PACKET_15_0_2_3_sem,
        ↓fast_pow.pow_L_2TAG_PACKET_15_0_2_2_sem,
        ↓fast_pow.pow_L_2TAG_PACKET_15_0_2_1_sem, ↓fast_pow.pow_L_2TAG_PACKET_6_0_2_1_sem,
        ↓fast_pow.pow_L_2TAG_PACKET_0_0_2_1_sem, ↓fast_pow.pow_B1_2_1_sem,
        ↓fast_pow.pow_start_1_sem, ↓fast_pow.pow_entry_1_sem, ↓Machine.get_setx,
        ↓Machine.get_setg, ↓Machine.get_setstk, ↓Machine.get_enter, ↓Machine.get_setFlags,
        ↓Machine.trace_set, ↓Machine.get_ite, ↓Machine.trace_ite, ↓Machine.obs_eq_get,
        ↓Machine.flags_get, ↓Machine.flags_trace, ↓sem_get_1, ↓sem_get_2, ↓sem_get_3,
        ↓sem_get_4, ↓sem_trace_1, ↓sem_trace_2, ↓sem_trace_3, ↓sem_trace_4, ↓load_const,
        cc_iff, ea, and_imm, and_imm_left, ilog2_lit, or_eq_zero, or_mod32, or_lt_2p31,
        Nat.mod_mod, Nat.zero_or, Nat.or_zero, Nat.sub_zero, Nat.add_mod_right, lane_eq,
        Machine.io_eq_get, Nat.xor_self, Loc.x.injEq, Loc.g.injEq, Loc.m.injEq,
        Bool.toNat_eq_zero, Bool.toNat_eq_one, Nat.reducePow, Nat.reduceMul,
        Nat.reduceMod, Nat.reduceAdd, Nat.reduceSub, Nat.reduceDiv, Nat.reduceEqDiff,
        Nat.reduceLTLE, Nat.reduceLeDiff, Nat.reduceLT, Nat.reduceGT, Nat.reduceOr,
        Nat.reduceXor, reduceCtorEq, Bool.not_eq_true', Bool.not_eq_true,
        decide_eq_true_eq, decide_eq_false_iff_not, Bool.and_eq_true, Bool.or_eq_true,
        bne_iff_ne, beq_iff_eq, ne_eq, Bool.not_eq_false', Bool.not_eq_false, decide_not,
        not_not, Bool.decide_eq_true, Bool.false_eq_true, Bool.true_eq_false,
        not_false_eq_true, not_true_eq_false, and_true, true_and, and_false, false_and,
        or_true, true_or, or_false, false_or, not_true, not_false_iff, iff_self, true_iff,
        iff_true, false_iff, iff_false, ite_self, decide_eq_decide, decide_False,
        decide_True, Bool.not_true, Bool.not_false]
  · set_option maxRecDepth 8000 in
    simp only [
        ↓reduceIte, hx, h3, ↓fast_pow.pow_L_2TAG_PACKET_20_0_2_2_sem,
        ↓fast_pow.pow_L_2TAG_PACKET_20_0_2_1_sem,
        ↓fast_pow.pow_L_2TAG_PACKET_15_0_2_4_sem,
        ↓fast_pow.pow_L_2TAG_PACKET_15_0_2_3_sem,
        ↓fast_pow.pow_L_2TAG_PACKET_15_0_2_2_sem,
        ↓fast_pow.pow_L_2TAG_PACKET_15_0_2_1_sem, ↓fast_pow.pow_L_2TAG_PACKET_6_0_2_1_sem,
        ↓fast_pow.pow_L_2TAG_PACKET_0_0_2_1_sem, ↓fast_pow.pow_B1_2_1_sem,
        ↓fast_pow.pow_start_1_sem, ↓fast_pow.pow_entry_1_sem, ↓Machine.get_setx,
        ↓Machine.get_setg, ↓Machine.get_setstk, ↓Machine.get_enter, ↓Machine.get_setFlags,
        ↓Machine.trace_set, ↓Machine.get_ite, ↓Machine.trace_ite, ↓Machine.obs_eq_get,
        ↓Machine.flags_get, ↓Machine.flags_trace, ↓sem_get_1, ↓sem_get_2, ↓sem_get_3,
        ↓sem_get_4, ↓sem_trace_1, ↓sem_trace_2, ↓sem_trace_3, ↓sem_trace_4, ↓load_const,
        cc_iff, ea, and_imm, and_imm_left, ilog2_lit, or_eq_zero, or_mod32, or_lt_2p31,
        Nat.mod_mod, Nat.zero_or, Nat.or_zero, Nat.sub_zero, Nat.add_mod_right, lane_eq,
        Machine.io_eq_get, Nat.xor_self, Loc.x.injEq, Loc.g.injEq, Loc.m.injEq,
        Bool.toNat_eq_zero, Bool.toNat_eq_one, Nat.reducePow, Nat.reduceMul,
        Nat.reduceMod, Nat.reduceAdd, Nat.reduceSub, Nat.reduceDiv, Nat.reduceEqDiff,
        Nat.reduceLTLE, Nat.reduceLeDiff, Nat.reduceLT, Nat.reduceGT, Nat.reduceOr,
        Nat.reduceXor, reduceCtorEq, Bool.not_eq_true', Bool.not_eq_true,
        decide_eq_true_eq, decide_eq_false_iff_not, Bool.and_eq_true, Bool.or_eq_true,
        bne_iff_ne, beq_iff_eq, ne_eq, Bool.not_eq_false', Bool.not_eq_false, decide_not,
        not_not, Bool.decide_eq_true, Bool.false_eq_true, Bool.true_eq_false,
        not_false_eq_true, not_true_eq_false, and_true, true_and, and_false, false_and,
        or_true, true_or, or_false, false_or, not_true, not_false_iff, iff_self, true_iff,
        iff_true, false_iff, iff_false, ite_self, decide_eq_decide, decide_False,
        decide_True, Bool.not_true, Bool.not_false]
    all_goals omega
  · set_option maxRecDepth 8000 in
    simp only [
        ↓reduceIte, hx, h3, ↓fast_pow.pow_L_2TAG_PACKET_20_0_2_1_sem,
        ↓fast_pow.pow_L_2TAG_PACKET_15_0_2_4_sem,
        ↓fast_pow.pow_L_2TAG_PACKET_15_0_2_3_sem,
        ↓fast_pow.pow_L_2TAG_PACKET_15_0_2_2_sem,
        ↓fast_pow.pow_L_2TAG_PACKET_15_0_2_1_sem, ↓fast_pow.pow_L_2TAG_PACKET_6_0_2_1_sem,
        ↓fast_pow.pow_L_2TAG_PACKET_0_0_2_1_sem, ↓fast_pow.pow_B1_2_1_sem,
        ↓fast_pow.pow_start_1_sem, ↓fast_pow.pow_entry_1_sem, ↓Machine.get_setx,
        ↓Machine.get_setg, ↓Machine.get_setstk, ↓Machine.get_enter, ↓Machine.get_setFlags,
        ↓Machine.trace_set, ↓Machine.get_ite, ↓Machine.trace_ite, ↓Machine.obs_eq_get,
        ↓Machine.flags_get, ↓Machine.flags_trace, ↓sem_get_1, ↓sem_get_2, ↓sem_get_3,
        ↓sem_get_4, ↓sem_trace_1, ↓sem_trace_2, ↓sem_trace_3, ↓sem_trace_4, ↓load_const,
        cc_iff, ea, and_imm, and_imm_left, ilog2_lit, or_eq_zero, or_mod32, or_lt_2p31,
        Nat.mod_mod, Nat.zero_or, Nat.or_zero, Nat.sub_zero, Nat.add_mod_right, lane_eq,
        Machine.io_eq_get, Nat.xor_self, Loc.x.injEq, Loc.g.injEq, Loc.m.injEq,
        Bool.toNat_eq_zero, Bool.toNat_eq_one, Nat.reducePow, Nat.reduceMul,
        Nat.reduceMod, Nat.reduceAdd, Nat.reduceSub, Nat.reduceDiv, Nat.reduceEqDiff,
        Nat.reduceLTLE, Nat.reduceLeDiff, Nat.reduceLT, Nat.reduceGT, Nat.reduceOr,
        Nat.reduceXor, reduceCtorEq, Bool.not_eq_true', Bool.not_eq_true,
        decide_eq_true_eq, decide_eq_false_iff_not, Bool.and_eq_true, Bool.or_eq_true,
        bne_iff_ne, beq_iff_eq, ne_eq, Bool.not_eq_false', Bool.not_eq_false, decide_not,
        not_not, Bool.decide_eq_true, Bool.false_eq_true, Bool.true_eq_false,
        not_false_eq_true, not_true_eq_false, and_true, true_and, and_false, false_and,
        or_true, true_or, or_false, false_or, not_true, not_false_iff, iff_self, true_iff,
        iff_true, false_iff, iff_false, ite_self, decide_eq_decide, decide_False,
        decide_True, Bool.not_true, Bool.not_false]
    all_goals omega
  · set_option maxRecDepth 8000 in
    simp only [
        ↓reduceIte, hx, h3, ↓fast_pow.pow_L_2TAG_PACKET_15_0_2_3_sem,
        ↓fast_pow.pow_L_2TAG_PACKET_15_0_2_2_sem,
        ↓fast_pow.pow_L_2TAG_PACKET_15_0_2_1_sem, ↓fast_pow.pow_L_2TAG_PACKET_6_0_2_1_sem,
        ↓fast_pow.pow_L_2TAG_PACKET_0_0_2_1_sem, ↓fast_pow.pow_B1_2_1_sem,
        ↓fast_pow.pow_start_1_sem, ↓fast_pow.pow_entry_1_sem, ↓Machine.get_setx,
        ↓Machine.get_setg, ↓Machine.get_setstk, ↓Machine.get_enter, ↓Machine.get_setFlags,
        ↓Machine.trace_set, ↓Machine.get_ite, ↓Machine.trace_ite, ↓Machine.obs_eq_get,
        ↓Machine.flags_get, ↓Machine.flags_trace, ↓sem_get_1, ↓sem_get_2, ↓sem_get_3,
        ↓sem_get_4, ↓sem_trace_1, ↓sem_trace_2, ↓sem_trace_3, ↓sem_trace_4, ↓load_const,
        cc_iff, ea, and_imm, and_imm_left, ilog2_lit, or_eq_zero, or_mod32, or_lt_2p31,
        Nat.mod_mod, Nat.zero_or, Nat.or_zero, Nat.sub_zero, Nat.add_mod_right, lane_eq,
        Machine.io_eq_get, Nat.xor_self, Loc.x.injEq, Loc.g.injEq, Loc.m.injEq,
        Bool.toNat_eq_zero, Bool.toNat_eq_one, Nat.reducePow, Nat.reduceMul,
        Nat.reduceMod, Nat.reduceAdd, Nat.reduceSub, Nat.reduceDiv, Nat.reduceEqDiff,
        Nat.reduceLTLE, Nat.reduceLeDiff, Nat.reduceLT, Nat.reduceGT, Nat.reduceOr,
        Nat.reduceXor, reduceCtorEq, Bool.not_eq_true', Bool.not_eq_true,
        decide_eq_true_eq, decide_eq_false_iff_not, Bool.and_eq_true, Bool.or_eq_true,
        bne_iff_ne, beq_iff_eq, ne_eq, Bool.not_eq_false', Bool.not_eq_false, decide_not,
        not_not, Bool.decide_eq_true, Bool.false_eq_true, Bool.true_eq_false,
        not_false_eq_true, not_true_eq_false, and_true, true_and, and_false, false_and,
        or_true, true_or, or_false, false_or, not_true, not_false_iff, iff_self, true_iff,
        iff_true, false_iff, iff_false, ite_self, decide_eq_decide, decide_False,
        decide_True, Bool.not_true, Bool.not_false]
    all_goals omega
  · set_option maxRecDepth 8000 in
    simp only [
        ↓reduceIte, hx, h3, ↓fast_pow.pow_L_2TAG_PACKET_15_0_2_2_sem,
        ↓fast_pow.pow_L_2TAG_PACKET_15_0_2_1_sem, ↓fast_pow.pow_L_2TAG_PACKET_6_0_2_1_sem,
        ↓fast_pow.pow_L_2TAG_PACKET_0_0_2_1_sem, ↓fast_pow.pow_B1_2_1_sem,
        ↓fast_pow.pow_start_1_sem, ↓fast_pow.pow_entry_1_sem, ↓Machine.get_setx,
        ↓Machine.get_setg, ↓Machine.get_setstk, ↓Machine.get_enter, ↓Machine.get_setFlags,
        ↓Machine.trace_set, ↓Machine.get_ite, ↓Machine.trace_ite, ↓Machine.obs_eq_get,
        ↓Machine.flags_get, ↓Machine.flags_trace, ↓sem_get_1, ↓sem_get_2, ↓sem_get_3,
        ↓sem_get_4, ↓sem_trace_1, ↓sem_trace_2, ↓sem_trace_3, ↓sem_trace_4, ↓load_const,
        cc_iff, ea, and_imm, and_imm_left, ilog2_lit, or_eq_zero, or_mod32, or_lt_2p31,
        Nat.mod_mod, Nat.zero_or, Nat.or_zero, Nat.sub_zero, Nat.add_mod_right, lane_eq,
        Machine.io_eq_get, Nat.xor_self, Loc.x.injEq, Loc.g.injEq, Loc.m.injEq,
        Bool.toNat_eq_zero, Bool.toNat_eq_one, Nat.reducePow, Nat.reduceMul,
        Nat.reduceMod, Nat.reduceAdd, Nat.reduceSub, Nat.reduceDiv, Nat.reduceEqDiff,
        Nat.reduceLTLE, Nat.reduceLeDiff, Nat.reduceLT, Nat.reduceGT, Nat.reduceOr,
        Nat.reduceXor, reduceCtorEq, Bool.not_eq_true', Bool.not_eq_true,
        decide_eq_true_eq, decide_eq_false_iff_not, Bool.and_eq_true, Bool.or_eq_true,
        bne_iff_ne, beq_iff_eq, ne_eq, Bool.not_eq_false', Bool.not_eq_false, decide_not,
        not_not, Bool.decide_eq_true, Bool.false_eq_true, Bool.true_eq_false,
        not_false_eq_true, not_true_eq_false, and_true, true_and, and_false, false_and,
        or_true, true_or, or_false, false_or, not_true, not_false_iff, iff_self, true_iff,
        iff_true, false_iff, iff_false, ite_self, decide_eq_decide, decide_False,
        decide_True, Bool.not_true, Bool.not_false]
    all_goals omega
  · set_option maxRecDepth 8000 in
    simp only [
        ↓reduceIte, hx, h3, ↓fast_pow.pow_L_2TAG_PACKET_15_0_2_1_sem,
        ↓fast_pow.pow_L_2TAG_PACKET_6_0_2_1_sem, ↓fast_pow.pow_L_2TAG_PACKET_0_0_2_1_sem,
        ↓fast_pow.pow_B1_2_1_sem, ↓fast_pow.pow_start_1_sem, ↓fast_pow.pow_entry_1_sem,
        ↓Machine.get_setx, ↓Machine.get_setg, ↓Machine.get_setstk, ↓Machine.get_enter,
        ↓Machine.get_setFlags, ↓Machine.trace_set, ↓Machine.get_ite, ↓Machine.trace_ite,
        ↓Machine.obs_eq_get, ↓Machine.flags_get, ↓Machine.flags_trace, ↓sem_get_1,
        ↓sem_get_2, ↓sem_get_3, ↓sem_get_4, ↓sem_trace_1, ↓sem_trace_2, ↓sem_trace_3,
        ↓sem_trace_4, ↓load_const, cc_iff, ea, and_imm, and_imm_left, ilog2_lit,
        or_eq_zero, or_mod32, or_lt_2p31, Nat.mod_mod, Nat.zero_or, Nat.or_zero,
        Nat.sub_zero, Nat.add_mod_right, lane_eq, Machine.io_eq_get, Nat.xor_self,
        Loc.x.injEq, Loc.g.injEq, Loc.m.injEq, Bool.toNat_eq_zero, Bool.toNat_eq_one,
        Nat.reducePow, Nat.reduceMul, Nat.reduceMod, Nat.reduceAdd, Nat.reduceSub,
        Nat.reduceDiv, Nat.reduceEqDiff, Nat.reduceLTLE, Nat.reduceLeDiff, Nat.reduceLT,
        Nat.reduceGT, Nat.reduceOr, Nat.reduceXor, reduceCtorEq, Bool.not_eq_true',
        Bool.not_eq_true, decide_eq_true_eq, decide_eq_false_iff_not, Bool.and_eq_true,
        Bool.or_eq_true, bne_iff_ne, beq_iff_eq, ne_eq, Bool.not_eq_false',
        Bool.not_eq_false, decide_not, not_not, Bool.decide_eq_true, Bool.false_eq_true,
        Bool.true_eq_false, not_false_eq_true, not_true_eq_false, and_true, true_and,
        and_false, false_and, or_true, true_or, or_false, false_or, not_true,
        not_false_iff, iff_self, true_iff, iff_true, false_iff, iff_false, ite_self,
        decide_eq_decide, decide_False, decide_True, Bool.not_true, Bool.not_false]
    all_goals omega
  · set_option maxRecDepth 8000 in
    simp only [
        ↓reduceIte, hx, h3, ↓fast_pow.pow_L_2TAG_PACKET_6_0_2_1_sem,
        ↓fast_pow.pow_L_2TAG_PACKET_0_0_2_1_sem, ↓fast_pow.pow_B1_2_1_sem,
        ↓fast_pow.pow_start_1_sem, ↓fast_pow.pow_entry_1_sem, ↓Machine.get_setx,
        ↓Machine.get_setg, ↓Machine.get_setstk, ↓Machine.get_enter, ↓Machine.get_setFlags,
        ↓Machine.trace_set, ↓Machine.get_ite, ↓Machine.trace_ite, ↓Machine.obs_eq_get,
        ↓Machine.flags_get, ↓Machine.flags_trace, ↓sem_get_1, ↓sem_get_2, ↓sem_get_3,
        ↓sem_get_4, ↓sem_trace_1, ↓sem_trace_2, ↓sem_trace_3, ↓sem_trace_4, ↓load_const,
        cc_iff, ea, and_imm, and_imm_left, ilog2_lit, or_eq_zero, or_mod32, or_lt_2p31,
        Nat.mod_mod, Nat.zero_or, Nat.or_zero, Nat.sub_zero, Nat.add_mod_right, lane_eq,
        Machine.io_eq_get, Nat.xor_self, Loc.x.injEq, Loc.g.injEq, Loc.m.injEq,
        Bool.toNat_eq_zero, Bool.toNat_eq_one, Nat.reducePow, Nat.reduceMul,
        Nat.reduceMod, Nat.reduceAdd, Nat.reduceSub, Nat.reduceDiv, Nat.reduceEqDiff,
        Nat.reduceLTLE, Nat.reduceLeDiff, Nat.reduceLT, Nat.reduceGT, Nat.reduceOr,
        Nat.reduceXor, reduceCtorEq, Bool.not_eq_true', Bool.not_eq_true,
        decide_eq_true_eq, decide_eq_false_iff_not, Bool.and_eq_true, Bool.or_eq_true,
        bne_iff_ne, beq_iff_eq, ne_eq, Bool.not_eq_false', Bool.not_eq_false, decide_not,
        not_not, Bool.decide_eq_true, Bool.false_eq_true, Bool.true_eq_false,
        not_false_eq_true, not_true_eq_false, and_true, true_and, and_false, false_and,
        or_true, true_or, or_false, false_or, not_true, not_false_iff, iff_self, true_iff,
        iff_true, false_iff, iff_false, ite_self, decide_eq_decide, decide_False,
        decide_True, Bool.not_true, Bool.not_false]
    all_goals omega
  · set_option maxRecDepth 8000 in
    simp only [
        ↓reduceIte, hx, h3, ↓fast_pow.pow_L_2TAG_PACKET_0_0_2_1_sem,
        ↓fast_pow.pow_B1_2_1_sem, ↓fast_pow.pow_start_1_sem, ↓fast_pow.pow_entry_1_sem,
        ↓Machine.get_setx, ↓Machine.get_setg, ↓Machine.get_setstk, ↓Machine.get_enter,
        ↓Machine.get_setFlags, ↓Machine.trace_set, ↓Machine.get_ite, ↓Machine.trace_ite,
        ↓Machine.obs_eq_get, ↓Machine.flags_get, ↓Machine.flags_trace, ↓sem_get_1,
        ↓sem_get_2, ↓sem_get_3, ↓sem_get_4, ↓sem_trace_1, ↓sem_trace_2, ↓sem_trace_3,
        ↓sem_trace_4, ↓load_const, cc_iff, ea, and_imm, and_imm_left, ilog2_lit,
        or_eq_zero, or_mod32, or_lt_2p31, Nat.mod_mod, Nat.zero_or, Nat.or_zero,
        Nat.sub_zero, Nat.add_mod_right, lane_eq, Machine.io_eq_get, Nat.xor_self,
        Loc.x.injEq, Loc.g.injEq, Loc.m.injEq, Bool.toNat_eq_zero, Bool.toNat_eq_one,
        Nat.reducePow, Nat.reduceMul, Nat.reduceMod, Nat.reduceAdd, Nat.reduceSub,
        Nat.reduceDiv, Nat.reduceEqDiff, Nat.reduceLTLE, Nat.reduceLeDiff, Nat.reduceLT,
        Nat.reduceGT, Nat.reduceOr, Nat.reduceXor, reduceCtorEq, Bool.not_eq_true',
        Bool.not_eq_true, decide_eq_true_eq, decide_eq_false_iff_not, Bool.and_eq_true,
        Bool.or_eq_true, bne_iff_ne, beq_iff_eq, ne_eq, Bool.not_eq_false',
        Bool.not_eq_false, decide_not, not_not, Bool.decide_eq_true, Bool.false_eq_true,
        Bool.true_eq_false, not_false_eq_true, not_true_eq_false, and_true, true_and,
        and_false, false_and, or_true, true_or, or_false, false_or, not_true,
        not_false_iff, iff_self, true_iff, iff_true, false_iff, iff_false, ite_self,
        decide_eq_decide, decide_False, decide_True, Bool.not_true, Bool.not_false]
    all_goals omega
  · set_option maxRecDepth 8000 in
    simp only [
        ↓reduceIte, hx, h3, ↓fast_pow.pow_B1_2_1_sem, ↓fast_pow.pow_start_1_sem,
        ↓fast_pow.pow_entry_1_sem, ↓Machine.get_setx, ↓Machine.get_setg,
        ↓Machine.get_setstk, ↓Machine.get_enter, ↓Machine.get_setFlags,
        ↓Machine.trace_set, ↓Machine.get_ite, ↓Machine.trace_ite, ↓Machine.obs_eq_get,
        ↓Machine.flags_get, ↓Machine.flags_trace, ↓sem_get_1, ↓sem_get_2, ↓sem_get_3,
        ↓sem_get_4, ↓sem_trace_1, ↓sem_trace_2, ↓sem_trace_3, ↓sem_trace_4, ↓load_const,
        cc_iff, ea, and_imm, and_imm_left, ilog2_lit, or_eq_zero, or_mod32, or_lt_2p31,
        Nat.mod_mod, Nat.zero_or, Nat.or_zero, Nat.sub_zero, Nat.add_mod_right, lane_eq,
        Machine.io_eq_get, Nat.xor_self, Loc.x.injEq, Loc.g.injEq, Loc.m.injEq,
        Bool.toNat_eq_zero, Bool.toNat_eq_one, Nat.reducePow, Nat.reduceMul,
        Nat.reduceMod, Nat.reduceAdd, Nat.reduceSub, Nat.reduceDiv, Nat.reduceEqDiff,
        Nat.reduceLTLE, Nat.reduceLeDiff, Nat.reduceLT, Nat.reduceGT, Nat.reduceOr,
        Nat.reduceXor, reduceCtorEq, Bool.not_eq_true', Bool.not_eq_true,
        decide_eq_true_eq, decide_eq_false_iff_not, Bool.and_eq_true, Bool.or_eq_true,
        bne_iff_ne, beq_iff_eq, ne_eq, Bool.not_eq_false', Bool.not_eq_false, decide_not,
        not_not, Bool.decide_eq_true, Bool.false_eq_true, Bool.true_eq_false,
        not_false_eq_true, not_true_eq_false, and_true, true_and, and_false, false_and,
        or_true, true_or, or_false, false_or, not_true, not_false_iff, iff_self, true_iff,
        iff_true, false_iff, iff_false, ite_self, decide_eq_decide, decide_False,
        decide_True, Bool.not_true, Bool.not_false]
    all_goals omega

/-- C6: for `x = +Inf` and every `y` that is not a NaN, `fast_pow(+Inf, y)` is `+0` when
`y < 0` and `+Inf` when `y > 0` (finite or infinite `y`, integer or not). -/
theorem fast_pow_pos_inf (cpu : Cpu) (s : Machine) (hx : s.arg0 = 0x7FF0000000000000)
    (hy : f64IsNaN s.arg1 = false) (h0 : f64IsZero s.arg1 = false) :
    (f64Sign s.arg1 = 1 → (fast_pow cpu s).result = 0) ∧
    (f64Sign s.arg1 = 0 → (fast_pow cpu s).result = 0x7FF0000000000000) := by
  have hlt := arg1_lt s
  simp only [f64IsNaN, f64IsZero, f64Exp, f64Man, f64Sign, Nat.reducePow,
    decide_eq_false_iff_not] at hy h0 ⊢
  constructor
  · intro hs
    rcases Nat.lt_or_ge s.arg1 0xFFF0000000000000 with h | h
    · exact fast_pow_pinf_neg_run cpu s hx (by omega) h
    · exact fast_pow_pinf_ninf_run cpu s hx (by omega)
  · intro hs
    rcases Nat.lt_or_ge s.arg1 0x7FF0000000000000 with h | h
    · exact fast_pow_pinf_pos_run cpu s hx (by omega) h
    · exact fast_pow_pinf_pinf_run cpu s hx (by omega)

theorem fast_pow_pos_inf_witness :
    ((Machine.init 0x7FF0000000000000 0xBFE0000000000000).arg0 = 0x7FF0000000000000 ∧
      f64IsNaN (Machine.init 0x7FF0000000000000 0xBFE0000000000000).arg1 = false ∧
      f64IsZero (Machine.init 0x7FF0000000000000 0xBFE0000000000000).arg1 = false ∧
      f64Sign (Machine.init 0x7FF0000000000000 0xBFE0000000000000).arg1 = 1) ∧
    (fast_pow Cpu.sample (Machine.init 0x7FF0000000000000 0xBFE0000000000000)).result = 0 :=
  ⟨by decide, (fast_pow_pos_inf Cpu.sample (Machine.init 0x7FF0000000000000 0xBFE0000000000000)
    (by decide) (by decide) (by decide)).1 (by decide)⟩

end MacroAssembler

namespace MacroAssembler
open XReg GReg Machine

/-! ### `fast_pow` with exponent `±Inf` -/

theorem f64Div_one_zero : f64Div 0x3FF0000000000000 0 = 0x7FF0000000000000 := by decide!

theorem pow_L45_inf_grow (cpu : Cpu) (s : Machine)
    (hx : s.get (.m 8) % 2 ^ 64 < 0x7FF0000000000000)
    (hy : s.get (.m 16) % 2 ^ 64 = 0x7FF0000000000000 ∨
      s.get (.m 16) % 2 ^ 64 = 0xFFF0000000000000)
    (hxy : 0x3FF0000000000000 < s.get (.m 8) % 2 ^ 64 ↔
      s.get (.m 16) % 2 ^ 64 = 0x7FF0000000000000)
    (h1 : s.get (.m 8) % 2 ^ 64 ≠ 0x3FF0000000000000) :
    (fast_pow.L_2TAG_PACKET_45_0_2 cpu s).result = 0x7FF0000000000000 := by
  have hA := f64Add_negOne _ hx h1
  simp only [Nat.reducePow] at hx hy hxy h1 hA
  rw [
      fast_pow.pow_L_2TAG_PACKET_45_0_2_eq, if_pos, fast_pow.pow_L_2TAG_PACKET_53_0_2_eq,
      if_pos, fast_pow.pow_L_2TAG_PACKET_54_0_2_eq, if_pos,
      fast_pow.pow_L_2TAG_PACKET_55_0_2_eq, fast_pow.pow_B1_5_eq]
  · set_option maxRecDepth 8000 in
    simp only [
        ↓reduceIte, xor_bit15, ↓fast_pow.pow_B1_5_1_sem,
        ↓fast_pow.pow_L_2TAG_PACKET_55_0_2_1_sem,
        ↓fast_pow.pow_L_2TAG_PACKET_54_0_2_1_sem,
        ↓fast_pow.pow_L_2TAG_PACKET_53_0_2_1_sem,
        ↓fast_pow.pow_L_2TAG_PACKET_45_0_2_1_sem, ↓Machine.get_setx, ↓Machine.get_setg,
        ↓Machine.get_setstk, ↓Machine.get_enter, ↓Machine.get_setFlags,
        ↓Machine.trace_set, ↓Machine.get_ite, ↓Machine.trace_ite, ↓Machine.obs_eq_get,
        ↓Machine.flags_get, ↓Machine.flags_trace, ↓sem_get_1, ↓sem_get_2, ↓sem_get_3,
        ↓sem_get_4, ↓sem_trace_1, ↓sem_trace_2, ↓sem_trace_3, ↓sem_trace_4, ↓load_const,
        cc_iff, ea, and_imm, and_imm_left, ilog2_lit, or_eq_zero, or_mod32, or_lt_2p31,
        Nat.mod_mod, Nat.zero_or, Nat.or_zero, Nat.sub_zero, Nat.add_mod_right, lane_eq,
        Machine.io_eq_get, Nat.xor_self, Loc.x.injEq, Loc.g.injEq, Loc.m.injEq,
        Bool.toNat_eq_zero, Bool.toNat_eq_one, Nat.reducePow, Nat.reduceMul,
        Nat.reduceMod, Nat.reduceAdd, Nat.reduceSub, Nat.reduceDiv, Nat.reduceEqDiff,
        Nat.reduceLTLE, Nat.reduceLeDiff, Nat.reduceLT, Nat.reduceGT, Nat.reduceOr,
        Nat.reduceXor, reduceCtorEq, Bool.not_eq_true', Bool.not_eq_true,
        decide_eq_true_eq, decide_eq_false_iff_not, Bool.and_eq_true, Bool.or_eq_true,
        bne_iff_ne, beq_iff_eq, ne_eq, Bool.not_eq_false', Bool.not_eq_false, decide_not,
        not_not, Bool.decide_eq_true, Bool.false_eq_true, Bool.true_eq_false,
        not_false_eq_true, not_true_eq_false, and_true, true_and, and_false, false_and,
        or_true, true_or, or_false, false_or, not_true, not_false_iff, iff_self, true_iff,
        iff_true, false_iff, iff_false, ite_self, decide_eq_decide, decide_False,
        decide_True, Bool.not_true, Bool.not_false]
  · set_option maxRecDepth 8000 in
    simp only [
        ↓reduceIte, xor_bit15, ↓fast_pow.pow_L_2TAG_PACKET_54_0_2_1_sem,
        ↓fast_pow.pow_L_2TAG_PACKET_53_0_2_1_sem,
        ↓fast_pow.pow_L_2TAG_PACKET_45_0_2_1_sem, ↓Machine.get_setx, ↓Machine.get_setg,
        ↓Machine.get_setstk, ↓Machine.get_enter, ↓Machine.get_setFlags,
        ↓Machine.trace_set, ↓Machine.get_ite, ↓Machine.trace_ite, ↓Machine.obs_eq_get,
        ↓Machine.flags_get, ↓Machine.flags_trace, ↓sem_get_1, ↓sem_get_2, ↓sem_get_3,
        ↓sem_get_4, ↓sem_trace_1, ↓sem_trace_2, ↓sem_trace_3, ↓sem_trace_4, ↓load_const,
        cc_iff, ea, and_imm, and_imm_left, ilog2_lit, or_eq_zero, or_mod32, or_lt_2p31,
        Nat.mod_mod, Nat.zero_or, Nat.or_zero, Nat.sub_zero, Nat.add_mod_right, lane_eq,
        Machine.io_eq_get, Nat.xor_self, Loc.x.injEq, Loc.g.injEq, Loc.m.injEq,
        Bool.toNat_eq_zero, Bool.toNat_eq_one, Nat.reducePow, Nat.reduceMul,
        Nat.reduceMod, Nat.reduceAdd, Nat.reduceSub, Nat.reduceDiv, Nat.reduceEqDiff,
        Nat.reduceLTLE, Nat.reduceLeDiff, Nat.reduceLT, Nat.reduceGT, Nat.reduceOr,
        Nat.reduceXor, reduceCtorEq, Bool.not_eq_true', Bool.not_eq_true,
        decide_eq_true_eq, decide_eq_false_iff_not, Bool.and_eq_true, Bool.or_eq_true,
        bne_iff_ne, beq_iff_eq, ne_eq, Bool.not_eq_false', Bool.not_eq_false, decide_not,
        not_not, Bool.decide_eq_true, Bool.false_eq_true, Bool.true_eq_false,
        not_false_eq_true, not_true_eq_false, and_true, true_and, and_false, false_and,
        or_true, true_or, or_false, false_or, not_true, not_false_iff, iff_self, true_iff,
        iff_true, false_iff, iff_false, ite_self, decide_eq_decide, decide_False,
        decide_True, Bool.not_true, Bool.not_false]
    all_goals omega
  · set_option maxRecDepth 8000 in
    simp only [
        ↓reduceIte, xor_bit15, ↓fast_pow.pow_L_2TAG_PACKET_53_0_2_1_sem,
        ↓fast_pow.pow_L_2TAG_PACKET_45_0_2_1_sem, ↓Machine.get_setx, ↓Machine.get_setg,
        ↓Machine.get_setstk, ↓Machine.get_enter, ↓Machine.get_setFlags,
        ↓Machine.trace_set, ↓Machine.get_ite, ↓Machine.trace_ite, ↓Machine.obs_eq_get,
        ↓Machine.flags_get, ↓Machine.flags_trace, ↓sem_get_1, ↓sem_get_2, ↓sem_get_3,
        ↓sem_get_4, ↓sem_trace_1, ↓sem_trace_2, ↓sem_trace_3, ↓sem_trace_4, ↓load_const,
        cc_iff, ea, and_imm, and_imm_left, ilog2_lit, or_eq_zero, or_mod32, or_lt_2p31,
        Nat.mod_mod, Nat.zero_or, Nat.or_zero, Nat.sub_zero, Nat.add_mod_right, lane_eq,
        Machine.io_eq_get, Nat.xor_self, Loc.x.injEq, Loc.g.injEq, Loc.m.injEq,
        Bool.toNat_eq_zero, Bool.toNat_eq_one, Nat.reducePow, Nat.reduceMul,
        Nat.reduceMod, Nat.reduceAdd, Nat.reduceSub, Nat.reduceDiv, Nat.reduceEqDiff,
        Nat.reduceLTLE, Nat.reduceLeDiff, Nat.reduceLT, Nat.reduceGT, Nat.reduceOr,
        Nat.reduceXor, reduceCtorEq, Bool.not_eq_true', Bool.not_eq_true,
        decide_eq_true_eq, decide_eq_false_iff_not, Bool.and_eq_true, Bool.or_eq_true,
        bne_iff_ne, beq_iff_eq, ne_eq, Bool.not_eq_false', Bool.not_eq_false, decide_not,
        not_not, Bool.decide_eq_true, Bool.false_eq_true, Bool.true_eq_false,
        not_false_eq_true, not_true_eq_false, and_true, true_and, and_false, false_and,
        or_true, true_or, or_false, false_or, not_true, not_false_iff, iff_self, true_iff,
        iff_true, false_iff, iff_false, ite_self, decide_eq_decide, decide_False,
        decide_True, Bool.not_true, Bool.not_false]
    all_goals omega
  · set_option maxRecDepth 8000 in
    simp only [
        ↓reduceIte, xor_bit15, ↓fast_pow.pow_L_2TAG_PACKET_45_0_2_1_sem,
        ↓Machine.get_setx, ↓Machine.get_setg, ↓Machine.get_setstk, ↓Machine.get_enter,
        ↓Machine.get_setFlags, ↓Machine.trace_set, ↓Machine.get_ite, ↓Machine.trace_ite,
        ↓Machine.obs_eq_get, ↓Machine.flags_get, ↓Machine.flags_trace, ↓sem_get_1,
        ↓sem_get_2, ↓sem_get_3, ↓sem_get_4, ↓sem_trace_1, ↓sem_trace_2, ↓sem_trace_3,
        ↓sem_trace_4, ↓load_const, cc_iff, ea, and_imm, and_imm_left, ilog2_lit,
        or_eq_zero, or_mod32, or_lt_2p31, Nat.mod_mod, Nat.zero_or, Nat.or_zero,
        Nat.sub_zero, Nat.add_mod_right, lane_eq, Machine.io_eq_get, Nat.xor_self,
        Loc.x.injEq, Loc.g.injEq, Loc.m.injEq, Bool.toNat_eq_zero, Bool.toNat_eq_one,
        Nat.reducePow, Nat.reduceMul, Nat.reduceMod, Nat.reduceAdd, Nat.reduceSub,
        Nat.reduceDiv, Nat.reduceEqDiff, Nat.reduceLTLE, Nat.reduceLeDiff, Nat.reduceLT,
        Nat.reduceGT, Nat.reduceOr, Nat.reduceXor, reduceCtorEq, Bool.not_eq_true',
        Bool.not_eq_true, decide_eq_true_eq, decide_eq_false_iff_not, Bool.and_eq_true,
        Bool.or_eq_true, bne_iff_ne, beq_iff_eq, ne_eq, Bool.not_eq_false',
        Bool.not_eq_false, decide_not, not_not, Bool.decide_eq_true, Bool.false_eq_true,
        Bool.true_eq_false, not_false_eq_true, not_true_eq_false, and_true, true_and,
        and_false, false_and, or_true, true_or, or_false, false_or, not_true,
        not_false_iff, iff_self, true_iff, iff_true, false_iff, iff_false, ite_self,
        decide_eq_decide, decide_False, decide_True, Bool.not_true, Bool.not_false]
    all_goals omega

theorem pow_L45_inf_decay (cpu : Cpu) (s : Machine)
    (hx : s.get (.m 8) % 2 ^ 64 < 0x7FF0000000000000)
    (hy : s.get (.m 16) % 2 ^ 64 = 0x7FF0000000000000 ∨
      s.get (.m 16) % 2 ^ 64 = 0xFFF0000000000000)
    (hxy : 0x3FF0000000000000 < s.get (.m 8) % 2 ^ 64 ↔
      s.get (.m 16) % 2 ^ 64 = 0xFFF0000000000000)
    (h1 : s.get (.m 8) % 2 ^ 64 ≠ 0x3FF0000000000000) :
    (fast_pow.L_2TAG_PACKET_45_0_2 cpu s).result = 0 := by
  have hA := f64Add_negOne _ hx h1
  simp only [Nat.reducePow] at hx hy hxy h1 hA
  rw [
      fast_pow.pow_L_2TAG_PACKET_45_0_2_eq, if_pos, fast_pow.pow_L_2TAG_PACKET_53_0_2_eq,
      if_pos, fast_pow.pow_L_2TAG_PACKET_54_0_2_eq, if_neg, fast_pow.pow_B1_5_eq]
  · set_option maxRecDepth 8000 in
    simp only [
        ↓reduceIte, xor_bit15, ↓fast_pow.pow_B1_5_1_sem,
        ↓fast_pow.pow_L_2TAG_PACKET_54_0_2_2_sem,
        ↓fast_pow.pow_L_2TAG_PACKET_54_0_2_1_sem,
        ↓fast_pow.pow_L_2TAG_PACKET_53_0_2_1_sem,
        ↓fast_pow.pow_L_2TAG_PACKET_45_0_2_1_sem, ↓Machine.get_setx, ↓Machine.get_setg,
        ↓Machine.get_setstk, ↓Machine.get_enter, ↓Machine.get_setFlags,
        ↓Machine.trace_set, ↓Machine.get_ite, ↓Machine.trace_ite, ↓Machine.obs_eq_get,
        ↓Machine.flags_get, ↓Machine.flags_trace, ↓sem_get_1, ↓sem_get_2, ↓sem_get_3,
        ↓sem_get_4, ↓sem_trace_1, ↓sem_trace_2, ↓sem_trace_3, ↓sem_trace_4, ↓load_const,
        cc_iff, ea, and_imm, and_imm_left, ilog2_lit, or_eq_zero, or_mod32, or_lt_2p31,
        Nat.mod_mod, Nat.zero_or, Nat.or_zero, Nat.sub_zero, Nat.add_mod_right, lane_eq,
        Machine.io_eq_get, Nat.xor_self, Loc.x.injEq, Loc.g.injEq, Loc.m.injEq,
        Bool.toNat_eq_zero, Bool.toNat_eq_one, Nat.reducePow, Nat.reduceMul,
        Nat.reduceMod, Nat.reduceAdd, Nat.reduceSub, Nat.reduceDiv, Nat.reduceEqDiff,
        Nat.reduceLTLE, Nat.reduceLeDiff, Nat.reduceLT, Nat.reduceGT, Nat.reduceOr,
        Nat.reduceXor, reduceCtorEq, Bool.not_eq_true', Bool.not_eq_true,
        decide_eq_true_eq, decide_eq_false_iff_not, Bool.and_eq_true, Bool.or_eq_true,
        bne_iff_ne, beq_iff_eq, ne_eq, Bool.not_eq_false', Bool.not_eq_false, decide_not,
        not_not, Bool.decide_eq_true, Bool.false_eq_true, Bool.true_eq_false,
        not_false_eq_true, not_true_eq_false, and_true, true_and, and_false, false_and,
        or_true, true_or, or_false, false_or, not_true, not_false_iff, iff_self, true_iff,
        iff_true, false_iff, iff_false, ite_self, decide_eq_decide, decide_False,
        decide_True, Bool.not_true, Bool.not_false]
  · set_option maxRecDepth 8000 in
    simp only [
        ↓reduceIte, xor_bit15, ↓fast_pow.pow_L_2TAG_PACKET_54_0_2_1_sem,
        ↓fast_pow.pow_L_2TAG_PACKET_53_0_2_1_sem,
        ↓fast_pow.pow_L_2TAG_PACKET_45_0_2_1_sem, ↓Machine.get_setx, ↓Machine.get_setg,
        ↓Machine.get_setstk, ↓Machine.get_enter, ↓Machine.get_setFlags,
        ↓Machine.trace_set, ↓Machine.get_ite, ↓Machine.trace_ite, ↓Machine.obs_eq_get,
        ↓Machine.flags_get, ↓Machine.flags_trace, ↓sem_get_1, ↓sem_get_2, ↓sem_get_3,
        ↓sem_get_4, ↓sem_trace_1, ↓sem_trace_2, ↓sem_trace_3, ↓sem_trace_4, ↓load_const,
        cc_iff, ea, and_imm, and_imm_left, ilog2_lit, or_eq_zero, or_mod32, or_lt_2p31,
        Nat.mod_mod, Nat.zero_or, Nat.or_zero, Nat.sub_zero, Nat.add_mod_right, lane_eq,
        Machine.io_eq_get, Nat.xor_self, Loc.x.injEq, Loc.g.injEq, Loc.m.injEq,
        Bool.toNat_eq_zero, Bool.toNat_eq_one, Nat.reducePow, Nat.reduceMul,
        Nat.reduceMod, Nat.reduceAdd, Nat.reduceSub, Nat.reduceDiv, Nat.reduceEqDiff,
        Nat.reduceLTLE, Nat.reduceLeDiff, Nat.reduceLT, Nat.reduceGT, Nat.reduceOr,
        Nat.reduceXor, reduceCtorEq, Bool.not_eq_true', Bool.not_eq_true,
        decide_eq_true_eq, decide_eq_false_iff_not, Bool.and_eq_true, Bool.or_eq_true,
        bne_iff_ne, beq_iff_eq, ne_eq, Bool.not_eq_false', Bool.not_eq_false, decide_not,
        not_not, Bool.decide_eq_true, Bool.false_eq_true, Bool.true_eq_false,
        not_false_eq_true, not_true_eq_false, and_true, true_and, and_false, false_and,
        or_true, true_or, or_false, false_or, not_true, not_false_iff, iff_self, true_iff,
        iff_true, false_iff, iff_false, ite_self, decide_eq_decide, decide_False,
        decide_True, Bool.not_true, Bool.not_false]
    all_goals omega
  · set_option maxRecDepth 8000 in
    simp only [
        ↓reduceIte, xor_bit15, ↓fast_pow.pow_L_2TAG_PACKET_53_0_2_1_sem,
        ↓fast_pow.pow_L_2TAG_PACKET_45_0_2_1_sem, ↓Machine.get_setx, ↓Machine.get_setg,
        ↓Machine.get_setstk, ↓Machine.get_enter, ↓Machine.get_setFlags,
        ↓Machine.trace_set, ↓Machine.get_ite, ↓Machine.trace_ite, ↓Machine.obs_eq_get,
        ↓Machine.flags_get, ↓Machine.flags_trace, ↓sem_get_1, ↓sem_get_2, ↓sem_get_3,
        ↓sem_get_4, ↓sem_trace_1, ↓sem_trace_2, ↓sem_trace_3, ↓sem_trace_4, ↓load_const,
        cc_iff, ea, and_imm, and_imm_left, ilog2_lit, or_eq_zero, or_mod32, or_lt_2p31,
        Nat.mod_mod, Nat.zero_or, Nat.or_zero, Nat.sub_zero, Nat.add_mod_right, lane_eq,
        Machine.io_eq_get, Nat.xor_self, Loc.x.injEq, Loc.g.injEq, Loc.m.injEq,
        Bool.toNat_eq_zero, Bool.toNat_eq_one, Nat.reducePow, Nat.reduceMul,
        Nat.reduceMod, Nat.reduceAdd, Nat.reduceSub, Nat.reduceDiv, Nat.reduceEqDiff,
        Nat.reduceLTLE, Nat.reduceLeDiff, Nat.reduceLT, Nat.reduceGT, Nat.reduceOr,
        Nat.reduceXor, reduceCtorEq, Bool.not_eq_true', Bool.not_eq_true,
        decide_eq_true_eq, decide_eq_false_iff_not, Bool.and_eq_true, Bool.or_eq_true,
        bne_iff_ne, beq_iff_eq, ne_eq, Bool.not_eq_false', Bool.not_eq_false, decide_not,
        not_not, Bool.decide_eq_true, Bool.false_eq_true, Bool.true_eq_false,
        not_false_eq_true, not_true_eq_false, and_true, true_and, and_false, false_and,
        or_true, true_or, or_false, false_or, not_true, not_false_iff, iff_self, true_iff,
        iff_true, false_iff, iff_false, ite_self, decide_eq_decide, decide_False,
        decide_True, Bool.not_true, Bool.not_false]
    all_goals omega
  · set_option maxRecDepth 8000 in
    simp only [
        ↓reduceIte, xor_bit15, ↓fast_pow.pow_L_2TAG_PACKET_45_0_2_1_sem,
        ↓Machine.get_setx, ↓Machine.get_setg, ↓Machine.get_setstk, ↓Machine.get_enter,
        ↓Machine.get_setFlags, ↓Machine.trace_set, ↓Machine.get_ite, ↓Machine.trace_ite,
        ↓Machine.obs_eq_get, ↓Machine.flags_get, ↓Machine.flags_trace, ↓sem_get_1,
        ↓sem_get_2, ↓sem_get_3, ↓sem_get_4, ↓sem_trace_1, ↓sem_trace_2, ↓sem_trace_3,
        ↓sem_trace_4, ↓load_const, cc_iff, ea, and_imm, and_imm_left, ilog2_lit,
        or_eq_zero, or_mod32, or_lt_2p31, Nat.mod_mod, Nat.zero_or, Nat.or_zero,
        Nat.sub_zero, Nat.add_mod_right, lane_eq, Machine.io_eq_get, Nat.xor_self,
        Loc.x.injEq, Loc.g.injEq, Loc.m.injEq, Bool.toNat_eq_zero, Bool.toNat_eq_one,
        Nat.reducePow, Nat.reduceMul, Nat.reduceMod, Nat.reduceAdd, Nat.reduceSub,
        Nat.reduceDiv, Nat.reduceEqDiff, Nat.reduceLTLE, Nat.reduceLeDiff, Nat.reduceLT,
        Nat.reduceGT, Nat.reduceOr, Nat.reduceXor, reduceCtorEq, Bool.not_eq_true',
        Bool.not_eq_true, decide_eq_true_eq, decide_eq_false_iff_not, Bool.and_eq_true,
        Bool.or_eq_true, bne_iff_ne, beq_iff_eq, ne_eq, Bool.not_eq_false',
        Bool.not_eq_false, decide_not, not_not, Bool.decide_eq_true, Bool.false_eq_true,
        Bool.true_eq_false, not_false_eq_true, not_true_eq_false, and_true, true_and,
        and_false, false_and, or_true, true_or, or_false, false_or, not_true,
        not_false_iff, iff_self, true_iff, iff_true, false_iff, iff_false, ite_self,
        decide_eq_decide, decide_False, decide_True, Bool.not_true, Bool.not_false]
    all_goals omega

theorem pow_L45_one (cpu : Cpu) (s : Machine)
    (h1 : s.get (.m 8) % 2 ^ 64 = 0x3FF0000000000000) :
    (fast_pow.L_2TAG_PACKET_45_0_2 cpu s).result = 0x7FF8000000000000 := by
  simp only [Nat.reducePow] at h1
  rw [
      fast_pow.pow_L_2TAG_PACKET_45_0_2_eq, if_neg, fast_pow.pow_B1_5_eq]
  · set_option maxRecDepth 8000 in
    simp only [
        ↓reduceIte, h1, f64Add_negOne_one, ↓fast_pow.pow_B1_5_1_sem,
        ↓fast_pow.pow_L_2TAG_PACKET_45_0_2_2_sem,
        ↓fast_pow.pow_L_2TAG_PACKET_45_0_2_1_sem, ↓Machine.get_setx, ↓Machine.get_setg,
        ↓Machine.get_setstk, ↓Machine.get_enter, ↓Machine.get_setFlags,
        ↓Machine.trace_set, ↓Machine.get_ite, ↓Machine.trace_ite, ↓Machine.obs_eq_get,
        ↓Machine.flags_get, ↓Machine.flags_trace, ↓sem_get_1, ↓sem_get_2, ↓sem_get_3,
        ↓sem_get_4, ↓sem_trace_1, ↓sem_trace_2, ↓sem_trace_3, ↓sem_trace_4, ↓load_const,
        cc_iff, ea, and_imm, and_imm_left, ilog2_lit, or_eq_zero, or_mod32, or_lt_2p31,
        Nat.mod_mod, Nat.zero_or, Nat.or_zero, Nat.sub_zero, Nat.add_mod_right, lane_eq,
        Machine.io_eq_get, Nat.xor_self, Loc.x.injEq, Loc.g.injEq, Loc.m.injEq,
        Bool.toNat_eq_zero, Bool.toNat_eq_one, Nat.reducePow, Nat.reduceMul,
        Nat.reduceMod, Nat.reduceAdd, Nat.reduceSub, Nat.reduceDiv, Nat.reduceEqDiff,
        Nat.reduceLTLE, Nat.reduceLeDiff, Nat.reduceLT, Nat.reduceGT, Nat.reduceOr,
        Nat.reduceXor, reduceCtorEq, Bool.not_eq_true', Bool.not_eq_true,
        decide_eq_true_eq, decide_eq_false_iff_not, Bool.and_eq_true, Bool.or_eq_true,
        bne_iff_ne, beq_iff_eq, ne_eq, Bool.not_eq_false', Bool.not_eq_false, decide_not,
        not_not, Bool.decide_eq_true, Bool.false_eq_true, Bool.true_eq_false,
        not_false_eq_true, not_true_eq_false, and_true, true_and, and_false, false_and,
        or_true, true_or, or_false, false_or, not_true, not_false_iff, iff_self, true_iff,
        iff_true, false_iff, iff_false, ite_self, decide_eq_decide, decide_False,
        decide_True, Bool.not_true, Bool.not_false]
  · set_option maxRecDepth 8000 in
    simp only [
        ↓reduceIte, h1, f64Add_negOne_one, ↓fast_pow.pow_L_2TAG_PACKET_45_0_2_1_sem,
        ↓Machine.get_setx, ↓Machine.get_setg, ↓Machine.get_setstk, ↓Machine.get_enter,
        ↓Machine.get_setFlags, ↓Machine.trace_set, ↓Machine.get_ite, ↓Machine.trace_ite,
        ↓Machine.obs_eq_get, ↓Machine.flags_get, ↓Machine.flags_trace, ↓sem_get_1,
        ↓sem_get_2, ↓sem_get_3, ↓sem_get_4, ↓sem_trace_1, ↓sem_trace_2, ↓sem_trace_3,
        ↓sem_trace_4, ↓load_const, cc_iff, ea, and_imm, and_imm_left, ilog2_lit,
        or_eq_zero, or_mod32, or_lt_2p31, Nat.mod_mod, Nat.zero_or, Nat.or_zero,
        Nat.sub_zero, Nat.add_mod_right, lane_eq, Machine.io_eq_get, Nat.xor_self,
        Loc.x.injEq, Loc.g.injEq, Loc.m.injEq, Bool.toNat_eq_zero, Bool.toNat_eq_one,
        Nat.reducePow, Nat.reduceMul, Nat.reduceMod, Nat.reduceAdd, Nat.reduceSub,
        Nat.reduceDiv, Nat.reduceEqDiff, Nat.reduceLTLE, Nat.reduceLeDiff, Nat.reduceLT,
        Nat.reduceGT, Nat.reduceOr, Nat.reduceXor, reduceCtorEq, Bool.not_eq_true',
        Bool.not_eq_true, decide_eq_true_eq, decide_eq_false_iff_not, Bool.and_eq_true,
        Bool.or_eq_true, bne_iff_ne, beq_iff_eq, ne_eq, Bool.not_eq_false',
        Bool.not_eq_false, decide_not, not_not, Bool.decide_eq_true, Bool.false_eq_true,
        Bool.true_eq_false, not_false_eq_true, not_true_eq_false, and_true, true_and,
        and_false, false_and, or_true, true_or, or_false, false_or, not_true,
        not_false_iff, iff_self, true_iff, iff_true, false_iff, iff_false, ite_self,
        decide_eq_decide, decide_False, decide_True, Bool.not_true, Bool.not_false]
    all_goals omega

theorem fast_pow_pzero_pinf_run (cpu : Cpu) (s : Machine) (hx : s.arg0 = 0)
    (hy : s.arg1 = 0x7FF0000000000000) : (fast_pow cpu s).result = 0 := by
  simp only [Machine.io_eq_get, Nat.reducePow] at hx hy
  rw [
      fast_pow, fast_pow.pow_entry_eq, fast_pow.pow_start_eq, fast_pow.pow_B1_2_eq, if_pos,
      fast_pow.pow_L_2TAG_PACKET_0_0_2_eq, if_neg, if_neg,
      fast_pow.pow_L_2TAG_PACKET_8_0_2_eq, if_pos, fast_pow.pow_L_2TAG_PACKET_9_0_2_eq,
      if_neg, if_neg, fast_pow.pow_L_2TAG_PACKET_40_0_2_eq, if_neg, if_pos,
      fast_pow.pow_L_2TAG_PACKET_41_0_2_eq, if_pos, fast_pow.pow_L_2TAG_PACKET_22_0_2_eq,
      fast_pow.pow_B1_5_eq]
  · set_option maxRecDepth 8000 in
    simp only [
        ↓reduceIte, hy, ↓fast_pow.pow_B1_5_1_sem,
        ↓fast_pow.pow_L_2TAG_PACKET_22_0_2_1_sem,
        ↓fast_pow.pow_L_2TAG_PACKET_41_0_2_1_sem,
        ↓fast_pow.pow_L_2TAG_PACKET_40_0_2_2_sem,
        ↓fast_pow.pow_L_2TAG_PACKET_40_0_2_1_sem, ↓fast_pow.pow_L_2TAG_PACKET_9_0_2_3_sem,
        ↓fast_pow.pow_L_2TAG_PACKET_9_0_2_2_sem, ↓fast_pow.pow_L_2TAG_PACKET_9_0_2_1_sem,
        ↓fast_pow.pow_L_2TAG_PACKET_8_0_2_1_sem, ↓fast_pow.pow_L_2TAG_PACKET_0_0_2_3_sem,
        ↓fast_pow.pow_L_2TAG_PACKET_0_0_2_2_sem, ↓fast_pow.pow_L_2TAG_PACKET_0_0_2_1_sem,
        ↓fast_pow.pow_B1_2_1_sem, ↓fast_pow.pow_start_1_sem, ↓fast_pow.pow_entry_1_sem,
        ↓Machine.get_setx, ↓Machine.get_setg, ↓Machine.get_setstk, ↓Machine.get_enter,
        ↓Machine.get_setFlags, ↓Machine.trace_set, ↓Machine.get_ite, ↓Machine.trace_ite,
        ↓Machine.obs_eq_get, ↓Machine.flags_get, ↓Machine.flags_trace, ↓sem_get_1,
        ↓sem_get_2, ↓sem_get_3, ↓sem_get_4, ↓sem_trace_1, ↓sem_trace_2, ↓sem_trace_3,
        ↓sem_trace_4, ↓load_const, cc_iff, ea, and_imm, and_imm_left, ilog2_lit,
        or_eq_zero, or_mod32, or_lt_2p31, Nat.mod_mod, Nat.zero_or, Nat.or_zero,
        Nat.sub_zero, Nat.add_mod_right, lane_eq, Machine.io_eq_get, Nat.xor_self,
        Loc.x.injEq, Loc.g.injEq, Loc.m.injEq, Bool.toNat_eq_zero, Bool.toNat_eq_one,
        Nat.reducePow, Nat.reduceMul, Nat.reduceMod, Nat.reduceAdd, Nat.reduceSub,
        Nat.reduceDiv, Nat.reduceEqDiff, Nat.reduceLTLE, Nat.reduceLeDiff, Nat.reduceLT,
        Nat.reduceGT, Nat.reduceOr, Nat.reduceXor, reduceCtorEq, Bool.not_eq_true',
        Bool.not_eq_true, decide_eq_true_eq, decide_eq_false_iff_not, Bool.and_eq_true,
        Bool.or_eq_true, bne_iff_ne, beq_iff_eq, ne_eq, Bool.not_eq_false',
        Bool.not_eq_false, decide_not, not_not, Bool.decide_eq_true, Bool.false_eq_true,
        Bool.true_eq_false, not_false_eq_true, not_true_eq_false, and_true, true_and,
        and_false, false_and, or_true, true_or, or_false, false_or, not_true,
        not_false_iff, iff_self, true_iff, iff_true, false_iff, iff_false, ite_self,
        decide_eq_decide, decide_False, decide_True, Bool.not_true, Bool.not_false]
  · set_option maxRecDepth 8000 in
    simp only [
        ↓reduceIte, hy, ↓fast_pow.pow_L_2TAG_PACKET_41_0_2_1_sem,
        ↓fast_pow.pow_L_2TAG_PACKET_40_0_2_2_sem,
        ↓fast_pow.pow_L_2TAG_PACKET_40_0_2_1_sem, ↓fast_pow.pow_L_2TAG_PACKET_9_0_2_3_sem,
        ↓fast_pow.pow_L_2TAG_PACKET_9_0_2_2_sem, ↓fast_pow.pow_L_2TAG_PACKET_9_0_2_1_sem,
        ↓fast_pow.pow_L_2TAG_PACKET_8_0_2_1_sem, ↓fast_pow.pow_L_2TAG_PACKET_0_0_2_3_sem,
        ↓fast_pow.pow_L_2TAG_PACKET_0_0_2_2_sem, ↓fast_pow.pow_L_2TAG_PACKET_0_0_2_1_sem,
        ↓fast_pow.pow_B1_2_1_sem, ↓fast_pow.pow_start_1_sem, ↓fast_pow.pow_entry_1_sem,
        ↓Machine.get_setx, ↓Machine.get_setg, ↓Machine.get_setstk, ↓Machine.get_enter,
        ↓Machine.get_setFlags, ↓Machine.trace_set, ↓Machine.get_ite, ↓Machine.trace_ite,
        ↓Machine.obs_eq_get, ↓Machine.flags_get, ↓Machine.flags_trace, ↓sem_get_1,
        ↓sem_get_2, ↓sem_get_3, ↓sem_get_4, ↓sem_trace_1, ↓sem_trace_2, ↓sem_trace_3,
        ↓sem_trace_4, ↓load_const, cc_iff, ea, and_imm, and_imm_left, ilog2_lit,
        or_eq_zero, or_mod32, or_lt_2p31, Nat.mod_mod, Nat.zero_or, Nat.or_zero,
        Nat.sub_zero, Nat.add_mod_right, lane_eq, Machine.io_eq_get, Nat.xor_self,
        Loc.x.injEq, Loc.g.injEq, Loc.m.injEq, Bool.toNat_eq_zero, Bool.toNat_eq_one,
        Nat.reducePow, Nat.reduceMul, Nat.reduceMod, Nat.reduceAdd, Nat.reduceSub,
        Nat.reduceDiv, Nat.reduceEqDiff, Nat.reduceLTLE, Nat.reduceLeDiff, Nat.reduceLT,
        Nat.reduceGT, Nat.reduceOr, Nat.reduceXor, reduceCtorEq, Bool.not_eq_true',
        Bool.not_eq_true, decide_eq_true_eq, decide_eq_false_iff_not, Bool.and_eq_true,
        Bool.or_eq_true, bne_iff_ne, beq_iff_eq, ne_eq, Bool.not_eq_false',
        Bool.not_eq_false, decide_not, not_not, Bool.decide_eq_true, Bool.false_eq_true,
        Bool.true_eq_false, not_false_eq_true, not_true_eq_false, and_true, true_and,
        and_false, false_and, or_true, true_or, or_false, false_or, not_true,
        not_false_iff, iff_self, true_iff, iff_true, false_iff, iff_false, ite_self,
        decide_eq_decide, decide_False, decide_True, Bool.not_true, Bool.not_false]
    all_goals omega
  · set_option maxRecDepth 8000 in
    simp only [
        ↓reduceIte, hy, ↓fast_pow.pow_L_2TAG_PACKET_40_0_2_2_sem,
        ↓fast_pow.pow_L_2TAG_PACKET_40_0_2_1_sem, ↓fast_pow.pow_L_2TAG_PACKET_9_0_2_3_sem,
        ↓fast_pow.pow_L_2TAG_PACKET_9_0_2_2_sem, ↓fast_pow.pow_L_2TAG_PACKET_9_0_2_1_sem,
        ↓fast_pow.pow_L_2TAG_PACKET_8_0_2_1_sem, ↓fast_pow.pow_L_2TAG_PACKET_0_0_2_3_sem,
        ↓fast_pow.pow_L_2TAG_PACKET_0_0_2_2_sem, ↓fast_pow.pow_L_2TAG_PACKET_0_0_2_1_sem,
        ↓fast_pow.pow_B1_2_1_sem, ↓fast_pow.pow_start_1_sem, ↓fast_pow.pow_entry_1_sem,
        ↓Machine.get_setx, ↓Machine.get_setg, ↓Machine.get_setstk, ↓Machine.get_enter,
        ↓Machine.get_setFlags, ↓Machine.trace_set, ↓Machine.get_ite, ↓Machine.trace_ite,
        ↓Machine.obs_eq_get, ↓Machine.flags_get, ↓Machine.flags_trace, ↓sem_get_1,
        ↓sem_get_2, ↓sem_get_3, ↓sem_get_4, ↓sem_trace_1, ↓sem_trace_2, ↓sem_trace_3,
        ↓sem_trace_4, ↓load_const, cc_iff, ea, and_imm, and_imm_left, ilog2_lit,
        or_eq_zero, or_mod32, or_lt_2p31, Nat.mod_mod, Nat.zero_or, Nat.or_zero,
        Nat.sub_zero, Nat.add_mod_right, lane_eq, Machine.io_eq_get, Nat.xor_self,
        Loc.x.injEq, Loc.g.injEq, Loc.m.injEq, Bool.toNat_eq_zero, Bool.toNat_eq_one,
        Nat.reducePow, Nat.reduceMul, Nat.reduceMod, Nat.reduceAdd, Nat.reduceSub,
        Nat.reduceDiv, Nat.reduceEqDiff, Nat.reduceLTLE, Nat.reduceLeDiff, Nat.reduceLT,
        Nat.reduceGT, Nat.reduceOr, Nat.reduceXor, reduceCtorEq, Bool.not_eq_true',
        Bool.not_eq_true, decide_eq_true_eq, decide_eq_false_iff_not, Bool.and_eq_true,
        Bool.or_eq_true, bne_iff_ne, beq_iff_eq, ne_eq, Bool.not_eq_false',
        Bool.not_eq_false, decide_not, not_not, Bool.decide_eq_true, Bool.false_eq_true,
        Bool.true_eq_false, not_false_eq_true, not_true_eq_false, and_true, true_and,
        and_false, false_and, or_true, true_or, or_false, false_or, not_true,
        not_false_iff, iff_self, true_iff, iff_true, false_iff, iff_false, ite_self,
        decide_eq_decide, decide_False, decide_True, Bool.not_true, Bool.not_false]
    all_goals omega
  · set_option maxRecDepth 8000 in
    simp only [
        ↓reduceIte, hy, ↓fast_pow.pow_L_2TAG_PACKET_40_0_2_1_sem,
        ↓fast_pow.pow_L_2TAG_PACKET_9_0_2_3_sem, ↓fast_pow.pow_L_2TAG_PACKET_9_0_2_2_sem,
        ↓fast_pow.pow_L_2TAG_PACKET_9_0_2_1_sem, ↓fast_pow.pow_L_2TAG_PACKET_8_0_2_1_sem,
        ↓fast_pow.pow_L_2TAG_PACKET_0_0_2_3_sem, ↓fast_pow.pow_L_2TAG_PACKET_0_0_2_2_sem,
        ↓fast_pow.pow_L_2TAG_PACKET_0_0_2_1_sem, ↓fast_pow.pow_B1_2_1_sem,
        ↓fast_pow.pow_start_1_sem, ↓fast_pow.pow_entry_1_sem, ↓Machine.get_setx,
        ↓Machine.get_setg, ↓Machine.get_setstk, ↓Machine.get_enter, ↓Machine.get_setFlags,
        ↓Machine.trace_set, ↓Machine.get_ite, ↓Machine.trace_ite, ↓Machine.obs_eq_get,
        ↓Machine.flags_get, ↓Machine.flags_trace, ↓sem_get_1, ↓sem_get_2, ↓sem_get_3,
        ↓sem_get_4, ↓sem_trace_1, ↓sem_trace_2, ↓sem_trace_3, ↓sem_trace_4, ↓load_const,
        cc_iff, ea, and_imm, and_imm_left, ilog2_lit, or_eq_zero, or_mod32, or_lt_2p31,
        Nat.mod_mod, Nat.zero_or, Nat.or_zero, Nat.sub_zero, Nat.add_mod_right, lane_eq,
        Machine.io_eq_get, Nat.xor_self, Loc.x.injEq, Loc.g.injEq, Loc.m.injEq,
        Bool.toNat_eq_zero, Bool.toNat_eq_one, Nat.reducePow, Nat.reduceMul,
        Nat.reduceMod, Nat.reduceAdd, Nat.reduceSub, Nat.reduceDiv, Nat.reduceEqDiff,
        Nat.reduceLTLE, Nat.reduceLeDiff, Nat.reduceLT, Nat.reduceGT, Nat.reduceOr,
        Nat.reduceXor, reduceCtorEq, Bool.not_eq_true', Bool.not_eq_true,
        decide_eq_true_eq, decide_eq_false_iff_not, Bool.and_eq_true, Bool.or_eq_true,
        bne_iff_ne, beq_iff_eq, ne_eq, Bool.not_eq_false', Bool.not_eq_false, decide_not,
        not_not, Bool.decide_eq_true, Bool.false_eq_true, Bool.true_eq_false,
        not_false_eq_true, not_true_eq_false, and_true, true_and, and_false, false_and,
        or_true, true_or, or_false, false_or, not_true, not_false_iff, iff_self, true_iff,
        iff_true, false_iff, iff_false, ite_self, decide_eq_decide, decide_False,
        decide_True, Bool.not_true, Bool.not_false]
    all_goals omega
  · set_option maxRecDepth 8000 in
    simp only [
        ↓reduceIte, hy, ↓fast_pow.pow_L_2TAG_PACKET_9_0_2_2_sem,
        ↓fast_pow.pow_L_2TAG_PACKET_9_0_2_1_sem, ↓fast_pow.pow_L_2TAG_PACKET_8_0_2_1_sem,
        ↓fast_pow.pow_L_2TAG_PACKET_0_0_2_3_sem, ↓fast_pow.pow_L_2TAG_PACKET_0_0_2_2_sem,
        ↓fast_pow.pow_L_2TAG_PACKET_0_0_2_1_sem, ↓fast_pow.pow_B1_2_1_sem,
        ↓fast_pow.pow_start_1_sem, ↓fast_pow.pow_entry_1_sem, ↓Machine.get_setx,
        ↓Machine.get_setg, ↓Machine.get_setstk, ↓Machine.get_enter, ↓Machine.get_setFlags,
        ↓Machine.trace_set, ↓Machine.get_ite, ↓Machine.trace_ite, ↓Machine.obs_eq_get,
        ↓Machine.flags_get, ↓Machine.flags_trace, ↓sem_get_1, ↓sem_get_2, ↓sem_get_3,
        ↓sem_get_4, ↓sem_trace_1, ↓sem_trace_2, ↓sem_trace_3, ↓sem_trace_4, ↓load_const,
        cc_iff, ea, and_imm, and_imm_left, ilog2_lit, or_eq_zero, or_mod32, or_lt_2p31,
        Nat.mod_mod, Nat.zero_or, Nat.or_zero, Nat.sub_zero, Nat.add_mod_right, lane_eq,
        Machine.io_eq_get, Nat.xor_self, Loc.x.injEq, Loc.g.injEq, Loc.m.injEq,
        Bool.toNat_eq_zero, Bool.toNat_eq_one, Nat.reducePow, Nat.reduceMul,
        Nat.reduceMod, Nat.reduceAdd, Nat.reduceSub, Nat.reduceDiv, Nat.reduceEqDiff,
        Nat.reduceLTLE, Nat.reduceLeDiff, Nat.reduceLT, Nat.reduceGT, Nat.reduceOr,
        Nat.reduceXor, reduceCtorEq, Bool.not_eq_true', Bool.not_eq_true,
        decide_eq_true_eq, decide_eq_false_iff_not, Bool.and_eq_true, Bool.or_eq_true,
        bne_iff_ne, beq_iff_eq, ne_eq, Bool.not_eq_false', Bool.not_eq_false, decide_not,
        not_not, Bool.decide_eq_true, Bool.false_eq_true, Bool.true_eq_false,
        not_false_eq_true, not_true_eq_false, and_true, true_and, and_false, false_and,
        or_true, true_or, or_false, false_or, not_true, not_false_iff, iff_self, true_iff,
        iff_true, false_iff, iff_false, ite_self, decide_eq_decide, decide_False,
        decide_True, Bool.not_true, Bool.not_false]
    all_goals omega
  · set_option maxRecDepth 8000 in
    simp only [
        ↓reduceIte, hy, ↓fast_pow.pow_L_2TAG_PACKET_9_0_2_1_sem,
        ↓fast_pow.pow_L_2TAG_PACKET_8_0_2_1_sem, ↓fast_pow.pow_L_2TAG_PACKET_0_0_2_3_sem,
        ↓fast_pow.pow_L_2TAG_PACKET_0_0_2_2_sem, ↓fast_pow.pow_L_2TAG_PACKET_0_0_2_1_sem,
        ↓fast_pow.pow_B1_2_1_sem, ↓fast_pow.pow_start_1_sem, ↓fast_pow.pow_entry_1_sem,
        ↓Machine.get_setx, ↓Machine.get_setg, ↓Machine.get_setstk, ↓Machine.get_enter,
        ↓Machine.get_setFlags, ↓Machine.trace_set, ↓Machine.get_ite, ↓Machine.trace_ite,
        ↓Machine.obs_eq_get, ↓Machine.flags_get, ↓Machine.flags_trace, ↓sem_get_1,
        ↓sem_get_2, ↓sem_get_3, ↓sem_get_4, ↓sem_trace_1, ↓sem_trace_2, ↓sem_trace_3,
        ↓sem_trace_4, ↓load_const, cc_iff, ea, and_imm, and_imm_left, ilog2_lit,
        or_eq_zero, or_mod32, or_lt_2p31, Nat.mod_mod, Nat.zero_or, Nat.or_zero,
        Nat.sub_zero, Nat.add_mod_right, lane_eq, Machine.io_eq_get, Nat.xor_self,
        Loc.x.injEq, Loc.g.injEq, Loc.m.injEq, Bool.toNat_eq_zero, Bool.toNat_eq_one,
        Nat.reducePow, Nat.reduceMul, Nat.reduceMod, Nat.reduceAdd, Nat.reduceSub,
        Nat.reduceDiv, Nat.reduceEqDiff, Nat.reduceLTLE, Nat.reduceLeDiff, Nat.reduceLT,
        Nat.reduceGT, Nat.reduceOr, Nat.reduceXor, reduceCtorEq, Bool.not_eq_true',
        Bool.not_eq_true, decide_eq_true_eq, decide_eq_false_iff_not, Bool.and_eq_true,
        Bool.or_eq_true, bne_iff_ne, beq_iff_eq, ne_eq, Bool.not_eq_false',
        Bool.not_eq_false, decide_not, not_not, Bool.decide_eq_true, Bool.false_eq_true,
        Bool.true_eq_false, not_false_eq_true, not_true_eq_false, and_true, true_and,
        and_false, false_and, or_true, true_or, or_false, false_or, not_true,
        not_false_iff, iff_self, true_iff, iff_true, false_iff, iff_false, ite_self,
        decide_eq_decide, decide_False, decide_True, Bool.not_true, Bool.not_false]
    all_goals omega
  · set_option maxRecDepth 8000 in
    simp only [
        ↓reduceIte, hy, ↓fast_pow.pow_L_2TAG_PACKET_8_0_2_1_sem,
        ↓fast_pow.pow_L_2TAG_PACKET_0_0_2_3_sem, ↓fast_pow.pow_L_2TAG_PACKET_0_0_2_2_sem,
        ↓fast_pow.pow_L_2TAG_PACKET_0_0_2_1_sem, ↓fast_pow.pow_B1_2_1_sem,
        ↓fast_pow.pow_start_1_sem, ↓fast_pow.pow_entry_1_sem, ↓Machine.get_setx,
        ↓Machine.get_setg, ↓Machine.get_setstk, ↓Machine.get_enter, ↓Machine.get_setFlags,
        ↓Machine.trace_set, ↓Machine.get_ite, ↓Machine.trace_ite, ↓Machine.obs_eq_get,
        ↓Machine.flags_get, ↓Machine.flags_trace, ↓sem_get_1, ↓sem_get_2, ↓sem_get_3,
        ↓sem_get_4, ↓sem_trace_1, ↓sem_trace_2, ↓sem_trace_3, ↓sem_trace_4, ↓load_const,
        cc_iff, ea, and_imm, and_imm_left, ilog2_lit, or_eq_zero, or_mod32, or_lt_2p31,
        Nat.mod_mod, Nat.zero_or, Nat.or_zero, Nat.sub_zero, Nat.add_mod_right, lane_eq,
        Machine.io_eq_get, Nat.xor_self, Loc.x.injEq, Loc.g.injEq, Loc.m.injEq,
        Bool.toNat_eq_zero, Bool.toNat_eq_one, Nat.reducePow, Nat.reduceMul,
        Nat.reduceMod, Nat.reduceAdd, Nat.reduceSub, Nat.reduceDiv, Nat.reduceEqDiff,
        Nat.reduceLTLE, Nat.reduceLeDiff, Nat.reduceLT, Nat.reduceGT, Nat.reduceOr,
        Nat.reduceXor, reduceCtorEq, Bool.not_eq_true', Bool.not_eq_true,
        decide_eq_true_eq, decide_eq_false_iff_not, Bool.and_eq_true, Bool.or_eq_true,
        bne_iff_ne, beq_iff_eq, ne_eq, Bool.not_eq_false', Bool.not_eq_false, decide_not,
        not_not, Bool.decide_eq_true, Bool.false_eq_true, Bool.true_eq_false,
        not_false_eq_true, not_true_eq_false, and_true, true_and, and_false, false_and,
        or_true, true_or, or_false, false_or, not_true, not_false_iff, iff_self, true_iff,
        iff_true, false_iff, iff_false, ite_self, decide_eq_decide, decide_False,
        decide_True, Bool.not_true, Bool.not_false]
    all_goals omega
  · set_option maxRecDepth 8000 in
    simp only [
        ↓reduceIte, hy, ↓fast_pow.pow_L_2TAG_PACKET_0_0_2_2_sem,
        ↓fast_pow.pow_L_2TAG_PACKET_0_0_2_1_sem, ↓fast_pow.pow_B1_2_1_sem,
        ↓fast_pow.pow_start_1_sem, ↓fast_pow.pow_entry_1_sem, ↓Machine.get_setx,
        ↓Machine.get_setg, ↓Machine.get_setstk, ↓Machine.get_enter, ↓Machine.get_setFlags,
        ↓Machine.trace_set, ↓Machine.get_ite, ↓Machine.trace_ite, ↓Machine.obs_eq_get,
        ↓Machine.flags_get, ↓Machine.flags_trace, ↓sem_get_1, ↓sem_get_2, ↓sem_get_3,
        ↓sem_get_4, ↓sem_trace_1, ↓sem_trace_2, ↓sem_trace_3, ↓sem_trace_4, ↓load_const,
        cc_iff, ea, and_imm, and_imm_left, ilog2_lit, or_eq_zero, or_mod32, or_lt_2p31,
        Nat.mod_mod, Nat.zero_or, Nat.or_zero, Nat.sub_zero, Nat.add_mod_right, lane_eq,
        Machine.io_eq_get, Nat.xor_self, Loc.x.injEq, Loc.g.injEq, Loc.m.injEq,
        Bool.toNat_eq_zero, Bool.toNat_eq_one, Nat.reducePow, Nat.reduceMul,
        Nat.reduceMod, Nat.reduceAdd, Nat.reduceSub, Nat.reduceDiv, Nat.reduceEqDiff,
        Nat.reduceLTLE, Nat.reduceLeDiff, Nat.reduceLT, Nat.reduceGT, Nat.reduceOr,
        Nat.reduceXor, reduceCtorEq, Bool.not_eq_true', Bool.not_eq_true,
        decide_eq_true_eq, decide_eq_false_iff_not, Bool.and_eq_true, Bool.or_eq_true,
        bne_iff_ne, beq_iff_eq, ne_eq, Bool.not_eq_false', Bool.not_eq_false, decide_not,
        not_not, Bool.decide_eq_true, Bool.false_eq_true, Bool.true_eq_false,
        not_false_eq_true, not_true_eq_false, and_true, true_and, and_false, false_and,
        or_true, true_or, or_false, false_or, not_true, not_false_iff, iff_self, true_iff,
        iff_true, false_iff, iff_false, ite_self, decide_eq_decide, decide_False,
        decide_True, Bool.not_true, Bool.not_false]
    all_goals omega
  · set_option maxRecDepth 8000 in
    simp only [
        ↓reduceIte, hy, ↓fast_pow.pow_L_2TAG_PACKET_0_0_2_1_sem, ↓fast_pow.pow_B1_2_1_sem,
        ↓fast_pow.pow_start_1_sem, ↓fast_pow.pow_entry_1_sem, ↓Machine.get_setx,
        ↓Machine.get_setg, ↓Machine.get_setstk, ↓Machine.get_enter, ↓Machine.get_setFlags,
        ↓Machine.trace_set, ↓Machine.get_ite, ↓Machine.trace_ite, ↓Machine.obs_eq_get,
        ↓Machine.flags_get, ↓Machine.flags_trace, ↓sem_get_1, ↓sem_get_2, ↓sem_get_3,
        ↓sem_get_4, ↓sem_trace_1, ↓sem_trace_2, ↓sem_trace_3, ↓sem_trace_4, ↓load_const,
        cc_iff, ea, and_imm, and_imm_left, ilog2_lit, or_eq_zero, or_mod32, or_lt_2p31,
        Nat.mod_mod, Nat.zero_or, Nat.or_zero, Nat.sub_zero, Nat.add_mod_right, lane_eq,
        Machine.io_eq_get, Nat.xor_self, Loc.x.injEq, Loc.g.injEq, Loc.m.injEq,
        Bool.toNat_eq_zero, Bool.toNat_eq_one, Nat.reducePow, Nat.reduceMul,
        Nat.reduceMod, Nat.reduceAdd, Nat.reduceSub, Nat.reduceDiv, Nat.reduceEqDiff,
        Nat.reduceLTLE, Nat.reduceLeDiff, Nat.reduceLT, Nat.reduceGT, Nat.reduceOr,
        Nat.reduceXor, reduceCtorEq, Bool.not_eq_true', Bool.not_eq_true,
        decide_eq_true_eq, decide_eq_false_iff_not, Bool.and_eq_true, Bool.or_eq_true,
        bne_iff_ne, beq_iff_eq, ne_eq, Bool.not_eq_false', Bool.not_eq_false, decide_not,
        not_not, Bool.decide_eq_true, Bool.false_eq_true, Bool.true_eq_false,
        not_false_eq_true, not_true_eq_false, and_true, true_and, and_false, false_and,
        or_true, true_or, or_false, false_or, not_true, not_false_iff, iff_self, true_iff,
        iff_true, false_iff, iff_false, ite_self, decide_eq_decide, decide_False,
        decide_True, Bool.not_true, Bool.not_false]
    all_goals omega
  · set_option maxRecDepth 8000 in
    simp only [
        ↓reduceIte, hy, ↓fast_pow.pow_B1_2_1_sem, ↓fast_pow.pow_start_1_sem,
        ↓fast_pow.pow_entry_1_sem, ↓Machine.get_setx, ↓Machine.get_setg,
        ↓Machine.get_setstk, ↓Machine.get_enter, ↓Machine.get_setFlags,
        ↓Machine.trace_set, ↓Machine.get_ite, ↓Machine.trace_ite, ↓Machine.obs_eq_get,
        ↓Machine.flags_get, ↓Machine.flags_trace, ↓sem_get_1, ↓sem_get_2, ↓sem_get_3,
        ↓sem_get_4, ↓sem_trace_1, ↓sem_trace_2, ↓sem_trace_3, ↓sem_trace_4, ↓load_const,
        cc_iff, ea, and_imm, and_imm_left, ilog2_lit, or_eq_zero, or_mod32, or_lt_2p31,
        Nat.mod_mod, Nat.zero_or, Nat.or_zero, Nat.sub_zero, Nat.add_mod_right, lane_eq,
        Machine.io_eq_get, Nat.xor_self, Loc.x.injEq, Loc.g.injEq, Loc.m.injEq,
        Bool.toNat_eq_zero, Bool.toNat_eq_one, Nat.reducePow, Nat.reduceMul,
        Nat.reduceMod, Nat.reduceAdd, Nat.reduceSub, Nat.reduceDiv, Nat.reduceEqDiff,
        Nat.reduceLTLE, Nat.reduceLeDiff, Nat.reduceLT, Nat.reduceGT, Nat.reduceOr,
        Nat.reduceXor, reduceCtorEq, Bool.not_eq_true', Bool.not_eq_true,
        decide_eq_true_eq, decide_eq_false_iff_not, Bool.and_eq_true, Bool.or_eq_true,
        bne_iff_ne, beq_iff_eq, ne_eq, Bool.not_eq_false', Bool.not_eq_false, decide_not,
        not_not, Bool.decide_eq_true, Bool.false_eq_true, Bool.true_eq_false,
        not_false_eq_true, not_true_eq_false, and_true, true_and, and_false, false_and,
        or_true, true_or, or_false, false_or, not_true, not_false_iff, iff_self, true_iff,
        iff_true, false_iff, iff_false, ite_self, decide_eq_decide, decide_False,
        decide_True, Bool.not_true, Bool.not_false]
    all_goals omega

theorem fast_pow_pzero_ninf_run (cpu : Cpu) (s : Machine) (hx : s.arg0 = 0)
    (hy : s.arg1 = 0xFFF0000000000000) :
    (fast_pow cpu s).result = 0x7FF0000000000000 := by
  simp only [Machine.io_eq_get, Nat.reducePow] at hx hy
  rw [
      fast_pow, fast_pow.pow_entry_eq, fast_pow.pow_start_eq, fast_pow.pow_B1_2_eq, if_pos,
      fast_pow.pow_L_2TAG_PACKET_0_0_2_eq, if_neg, if_neg,
      fast_pow.pow_L_2TAG_PACKET_8_0_2_eq, if_pos, fast_pow.pow_L_2TAG_PACKET_9_0_2_eq,
      if_neg, if_neg, fast_pow.pow_L_2TAG_PACKET_40_0_2_eq, if_neg, if_pos,
      fast_pow.pow_L_2TAG_PACKET_41_0_2_eq, if_neg, fast_pow.pow_L_2TAG_PACKET_44_0_2_eq,
      fast_pow.pow_L_2TAG_PACKET_17_0_2_eq, fast_pow.pow_B1_3_eq,
      fast_pow.pow_L_2TAG_PACKET_56_0_2_eq, fast_pow.pow_B1_5_eq]
  · set_option maxRecDepth 8000 in
    simp only [
        ↓reduceIte, hy, f64Div_one_zero, ↓fast_pow.pow_B1_5_1_sem,
        ↓fast_pow.pow_L_2TAG_PACKET_56_0_2_1_sem, ↓fast_pow.pow_B1_3_1_sem,
        ↓fast_pow.pow_L_2TAG_PACKET_17_0_2_1_sem,
        ↓fast_pow.pow_L_2TAG_PACKET_44_0_2_1_sem,
        ↓fast_pow.pow_L_2TAG_PACKET_41_0_2_2_sem,
        ↓fast_pow.pow_L_2TAG_PACKET_41_0_2_1_sem,
        ↓fast_pow.pow_L_2TAG_PACKET_40_0_2_2_sem,
        ↓fast_pow.pow_L_2TAG_PACKET_40_0_2_1_sem, ↓fast_pow.pow_L_2TAG_PACKET_9_0_2_3_sem,
        ↓fast_pow.pow_L_2TAG_PACKET_9_0_2_2_sem, ↓fast_pow.pow_L_2TAG_PACKET_9_0_2_1_sem,
        ↓fast_pow.pow_L_2TAG_PACKET_8_0_2_1_sem, ↓fast_pow.pow_L_2TAG_PACKET_0_0_2_3_sem,
        ↓fast_pow.pow_L_2TAG_PACKET_0_0_2_2_sem, ↓fast_pow.pow_L_2TAG_PACKET_0_0_2_1_sem,
        ↓fast_pow.pow_B1_2_1_sem, ↓fast_pow.pow_start_1_sem, ↓fast_pow.pow_entry_1_sem,
        ↓Machine.get_setx, ↓Machine.get_setg, ↓Machine.get_setstk, ↓Machine.get_enter,
        ↓Machine.get_setFlags, ↓Machine.trace_set, ↓Machine.get_ite, ↓Machine.trace_ite,
        ↓Machine.obs_eq_get, ↓Machine.flags_get, ↓Machine.flags_trace, ↓sem_get_1,
        ↓sem_get_2, ↓sem_get_3, ↓sem_get_4, ↓sem_trace_1, ↓sem_trace_2, ↓sem_trace_3,
        ↓sem_trace_4, ↓load_const, cc_iff, ea, and_imm, and_imm_left, ilog2_lit,
        or_eq_zero, or_mod32, or_lt_2p31, Nat.mod_mod, Nat.zero_or, Nat.or_zero,
        Nat.sub_zero, Nat.add_mod_right, lane_eq, Machine.io_eq_get, Nat.xor_self,
        Loc.x.injEq, Loc.g.injEq, Loc.m.injEq, Bool.toNat_eq_zero, Bool.toNat_eq_one,
        Nat.reducePow, Nat.reduceMul, Nat.reduceMod, Nat.reduceAdd, Nat.reduceSub,
        Nat.reduceDiv, Nat.reduceEqDiff, Nat.reduceLTLE, Nat.reduceLeDiff, Nat.reduceLT,
        Nat.reduceGT, Nat.reduceOr, Nat.reduceXor, reduceCtorEq, Bool.not_eq_true',
        Bool.not_eq_true, decide_eq_true_eq, decide_eq_false_iff_not, Bool.and_eq_true,
        Bool.or_eq_true, bne_iff_ne, beq_iff_eq, ne_eq, Bool.not_eq_false',
        Bool.not_eq_false, decide_not, not_not, Bool.decide_eq_true, Bool.false_eq_true,
        Bool.true_eq_false, not_false_eq_true, not_true_eq_false, and_true, true_and,
        and_false, false_and, or_true, true_or, or_false, false_or, not_true,
        not_false_iff, iff_self, true_iff, iff_true, false_iff, iff_false, ite_self,
        decide_eq_decide, decide_False, decide_True, Bool.not_true, Bool.not_false]
  · set_option maxRecDepth 8000 in
    simp only [
        ↓reduceIte, hy, f64Div_one_zero, ↓fast_pow.pow_L_2TAG_PACKET_41_0_2_1_sem,
        ↓fast_pow.pow_L_2TAG_PACKET_40_0_2_2_sem,
        ↓fast_pow.pow_L_2TAG_PACKET_40_0_2_1_sem, ↓fast_pow.pow_L_2TAG_PACKET_9_0_2_3_sem,
        ↓fast_pow.pow_L_2TAG_PACKET_9_0_2_2_sem, ↓fast_pow.pow_L_2TAG_PACKET_9_0_2_1_sem,
        ↓fast_pow.pow_L_2TAG_PACKET_8_0_2_1_sem, ↓fast_pow.pow_L_2TAG_PACKET_0_0_2_3_sem,
        ↓fast_pow.pow_L_2TAG_PACKET_0_0_2_2_sem, ↓fast_pow.pow_L_2TAG_PACKET_0_0_2_1_sem,
        ↓fast_pow.pow_B1_2_1_sem, ↓fast_pow.pow_start_1_sem, ↓fast_pow.pow_entry_1_sem,
        ↓Machine.get_setx, ↓Machine.get_setg, ↓Machine.get_setstk, ↓Machine.get_enter,
        ↓Machine.get_setFlags, ↓Machine.trace_set, ↓Machine.get_ite, ↓Machine.trace_ite,
        ↓Machine.obs_eq_get, ↓Machine.flags_get, ↓Machine.flags_trace, ↓sem_get_1,
        ↓sem_get_2, ↓sem_get_3, ↓sem_get_4, ↓sem_trace_1, ↓sem_trace_2, ↓sem_trace_3,
        ↓sem_trace_4, ↓load_const, cc_iff, ea, and_imm, and_imm_left, ilog2_lit,
        or_eq_zero, or_mod32, or_lt_2p31, Nat.mod_mod, Nat.zero_or, Nat.or_zero,
        Nat.sub_zero, Nat.add_mod_right, lane_eq, Machine.io_eq_get, Nat.xor_self,
        Loc.x.injEq, Loc.g.injEq, Loc.m.injEq, Bool.toNat_eq_zero, Bool.toNat_eq_one,
        Nat.reducePow, Nat.reduceMul, Nat.reduceMod, Nat.reduceAdd, Nat.reduceSub,
        Nat.reduceDiv, Nat.reduceEqDiff, Nat.reduceLTLE, Nat.reduceLeDiff, Nat.reduceLT,
        Nat.reduceGT, Nat.reduceOr, Nat.reduceXor, reduceCtorEq, Bool.not_eq_true',
        Bool.not_eq_true, decide_eq_true_eq, decide_eq_false_iff_not, Bool.and_eq_true,
        Bool.or_eq_true, bne_iff_ne, beq_iff_eq, ne_eq, Bool.not_eq_false',
        Bool.not_eq_false, decide_not, not_not, Bool.decide_eq_true, Bool.false_eq_true,
        Bool.true_eq_false, not_false_eq_true, not_true_eq_false, and_true, true_and,
        and_false, false_and, or_true, true_or, or_false, false_or, not_true,
        not_false_iff, iff_self, true_iff, iff_true, false_iff, iff_false, ite_self,
        decide_eq_decide, decide_False, decide_True, Bool.not_true, Bool.not_false]
    all_goals omega
  · set_option maxRecDepth 8000 in
    simp only [
        ↓reduceIte, hy, f64Div_one_zero, ↓fast_pow.pow_L_2TAG_PACKET_40_0_2_2_sem,
        ↓fast_pow.pow_L_2TAG_PACKET_40_0_2_1_sem, ↓fast_pow.pow_L_2TAG_PACKET_9_0_2_3_sem,
        ↓fast_pow.pow_L_2TAG_PACKET_9_0_2_2_sem, ↓fast_pow.pow_L_2TAG_PACKET_9_0_2_1_sem,
        ↓fast_pow.pow_L_2TAG_PACKET_8_0_2_1_sem, ↓fast_pow.pow_L_2TAG_PACKET_0_0_2_3_sem,
        ↓fast_pow.pow_L_2TAG_PACKET_0_0_2_2_sem, ↓fast_pow.pow_L_2TAG_PACKET_0_0_2_1_sem,
        ↓fast_pow.pow_B1_2_1_sem, ↓fast_pow.pow_start_1_sem, ↓fast_pow.pow_entry_1_sem,
        ↓Machine.get_setx, ↓Machine.get_setg, ↓Machine.get_setstk, ↓Machine.get_enter,
        ↓Machine.get_setFlags, ↓Machine.trace_set, ↓Machine.get_ite, ↓Machine.trace_ite,
        ↓Machine.obs_eq_get, ↓Machine.flags_get, ↓Machine.flags_trace, ↓sem_get_1,
        ↓sem_get_2, ↓sem_get_3, ↓sem_get_4, ↓sem_trace_1, ↓sem_trace_2, ↓sem_trace_3,
        ↓sem_trace_4, ↓load_const, cc_iff, ea, and_imm, and_imm_left, ilog2_lit,
        or_eq_zero, or_mod32, or_lt_2p31, Nat.mod_mod, Nat.zero_or, Nat.or_zero,
        Nat.sub_zero, Nat.add_mod_right, lane_eq, Machine.io_eq_get, Nat.xor_self,
        Loc.x.injEq, Loc.g.injEq, Loc.m.injEq, Bool.toNat_eq_zero, Bool.toNat_eq_one,
        Nat.reducePow, Nat.reduceMul, Nat.reduceMod, Nat.reduceAdd, Nat.reduceSub,
        Nat.reduceDiv, Nat.reduceEqDiff, Nat.reduceLTLE, Nat.reduceLeDiff, Nat.reduceLT,
        Nat.reduceGT, Nat.reduceOr, Nat.reduceXor, reduceCtorEq, Bool.not_eq_true',
        Bool.not_eq_true, decide_eq_true_eq, decide_eq_false_iff_not, Bool.and_eq_true,
        Bool.or_eq_true, bne_iff_ne, beq_iff_eq, ne_eq, Bool.not_eq_false',
        Bool.not_eq_false, decide_not, not_not, Bool.decide_eq_true, Bool.false_eq_true,
        Bool.true_eq_false, not_false_eq_true, not_true_eq_false, and_true, true_and,
        and_false, false_and, or_true, true_or, or_false, false_or, not_true,
        not_false_iff, iff_self, true_iff, iff_true, false_iff, iff_false, ite_self,
        decide_eq_decide, decide_False, decide_True, Bool.not_true, Bool.not_false]
    all_goals omega
  · set_option maxRecDepth 8000 in
    simp only [
        ↓reduceIte, hy, f64Div_one_zero, ↓fast_pow.pow_L_2TAG_PACKET_40_0_2_1_sem,
        ↓fast_pow.pow_L_2TAG_PACKET_9_0_2_3_sem, ↓fast_pow.pow_L_2TAG_PACKET_9_0_2_2_sem,
        ↓fast_pow.pow_L_2TAG_PACKET_9_0_2_1_sem, ↓fast_pow.pow_L_2TAG_PACKET_8_0_2_1_sem,
        ↓fast_pow.pow_L_2TAG_PACKET_0_0_2_3_sem, ↓fast_pow.pow_L_2TAG_PACKET_0_0_2_2_sem,
        ↓fast_pow.pow_L_2TAG_PACKET_0_0_2_1_sem, ↓fast_pow.pow_B1_2_1_sem,
        ↓fast_pow.pow_start_1_sem, ↓fast_pow.pow_entry_1_sem, ↓Machine.get_setx,
        ↓Machine.get_setg, ↓Machine.get_setstk, ↓Machine.get_enter, ↓Machine.get_setFlags,
        ↓Machine.trace_set, ↓Machine.get_ite, ↓Machine.trace_ite, ↓Machine.obs_eq_get,
        ↓Machine.flags_get, ↓Machine.flags_trace, ↓sem_get_1, ↓sem_get_2, ↓sem_get_3,
        ↓sem_get_4, ↓sem_trace_1, ↓sem_trace_2, ↓sem_trace_3, ↓sem_trace_4, ↓load_const,
        cc_iff, ea, and_imm, and_imm_left, ilog2_lit, or_eq_zero, or_mod32, or_lt_2p31,
        Nat.mod_mod, Nat.zero_or, Nat.or_zero, Nat.sub_zero, Nat.add_mod_right, lane_eq,
        Machine.io_eq_get, Nat.xor_self, Loc.x.injEq, Loc.g.injEq, Loc.m.injEq,
        Bool.toNat_eq_zero, Bool.toNat_eq_one, Nat.reducePow, Nat.reduceMul,
        Nat.reduceMod, Nat.reduceAdd, Nat.reduceSub, Nat.reduceDiv, Nat.reduceEqDiff,
        Nat.reduceLTLE, Nat.reduceLeDiff, Nat.reduceLT, Nat.reduceGT, Nat.reduceOr,
        Nat.reduceXor, reduceCtorEq, Bool.not_eq_true', Bool.not_eq_true,
        decide_eq_true_eq, decide_eq_false_iff_not, Bool.and_eq_true, Bool.or_eq_true,
        bne_iff_ne, beq_iff_eq, ne_eq, Bool.not_eq_false', Bool.not_eq_false, decide_not,
        not_not, Bool.decide_eq_true, Bool.false_eq_true, Bool.true_eq_false,
        not_false_eq_true, not_true_eq_false, and_true, true_and, and_false, false_and,
        or_true, true_or, or_false, false_or, not_true, not_false_iff, iff_self, true_iff,
        iff_true, false_iff, iff_false, ite_self, decide_eq_decide, decide_False,
        decide_True, Bool.not_true, Bool.not_false]
    all_goals omega
  · set_option maxRecDepth 8000 in
    simp only [
        ↓reduceIte, hy, f64Div_one_zero, ↓fast_pow.pow_L_2TAG_PACKET_9_0_2_2_sem,
        ↓fast_pow.pow_L_2TAG_PACKET_9_0_2_1_sem, ↓fast_pow.pow_L_2TAG_PACKET_8_0_2_1_sem,
        ↓fast_pow.pow_L_2TAG_PACKET_0_0_2_3_sem, ↓fast_pow.pow_L_2TAG_PACKET_0_0_2_2_sem,
        ↓fast_pow.pow_L_2TAG_PACKET_0_0_2_1_sem, ↓fast_pow.pow_B1_2_1_sem,
        ↓fast_pow.pow_start_1_sem, ↓fast_pow.pow_entry_1_sem, ↓Machine.get_setx,
        ↓Machine.get_setg, ↓Machine.get_setstk, ↓Machine.get_enter, ↓Machine.get_setFlags,
        ↓Machine.trace_set, ↓Machine.get_ite, ↓Machine.trace_ite, ↓Machine.obs_eq_get,
        ↓Machine.flags_get, ↓Machine.flags_trace, ↓sem_get_1, ↓sem_get_2, ↓sem_get_3,
        ↓sem_get_4, ↓sem_trace_1, ↓sem_trace_2, ↓sem_trace_3, ↓sem_trace_4, ↓load_const,
        cc_iff, ea, and_imm, and_imm_left, ilog2_lit, or_eq_zero, or_mod32, or_lt_2p31,
        Nat.mod_mod, Nat.zero_or, Nat.or_zero, Nat.sub_zero, Nat.add_mod_right, lane_eq,
        Machine.io_eq_get, Nat.xor_self, Loc.x.injEq, Loc.g.injEq, Loc.m.injEq,
        Bool.toNat_eq_zero, Bool.toNat_eq_one, Nat.reducePow, Nat.reduceMul,
        Nat.reduceMod, Nat.reduceAdd, Nat.reduceSub, Nat.reduceDiv, Nat.reduceEqDiff,
        Nat.reduceLTLE, Nat.reduceLeDiff, Nat.reduceLT, Nat.reduceGT, Nat.reduceOr,
        Nat.reduceXor, reduceCtorEq, Bool.not_eq_true', Bool.not_eq_true,
        decide_eq_true_eq, decide_eq_false_iff_not, Bool.and_eq_true, Bool.or_eq_true,
        bne_iff_ne, beq_iff_eq, ne_eq, Bool.not_eq_false', Bool.not_eq_false, decide_not,
        not_not, Bool.decide_eq_true, Bool.false_eq_true, Bool.true_eq_false,
        not_false_eq_true, not_true_eq_false, and_true, true_and, and_false, false_and,
        or_true, true_or, or_false, false_or, not_true, not_false_iff, iff_self, true_iff,
        iff_true, false_iff, iff_false, ite_self, decide_eq_decide, decide_False,
        decide_True, Bool.not_true, Bool.not_false]
    all_goals omega
  · set_option maxRecDepth 8000 in
    simp only [
        ↓reduceIte, hy, f64Div_one_zero, ↓fast_pow.pow_L_2TAG_PACKET_9_0_2_1_sem,
        ↓fast_pow.pow_L_2TAG_PACKET_8_0_2_1_sem, ↓fast_pow.pow_L_2TAG_PACKET_0_0_2_3_sem,
        ↓fast_pow.pow_L_2TAG_PACKET_0_0_2_2_sem, ↓fast_pow.pow_L_2TAG_PACKET_0_0_2_1_sem,
        ↓fast_pow.pow_B1_2_1_sem, ↓fast_pow.pow_start_1_sem, ↓fast_pow.pow_entry_1_sem,
        ↓Machine.get_setx, ↓Machine.get_setg, ↓Machine.get_setstk, ↓Machine.get_enter,
        ↓Machine.get_setFlags, ↓Machine.trace_set, ↓Machine.get_ite, ↓Machine.trace_ite,
        ↓Machine.obs_eq_get, ↓Machine.flags_get, ↓Machine.flags_trace, ↓sem_get_1,
        ↓sem_get_2, ↓sem_get_3, ↓sem_get_4, ↓sem_trace_1, ↓sem_trace_2, ↓sem_trace_3,
        ↓sem_trace_4, ↓load_const, cc_iff, ea, and_imm, and_imm_left, ilog2_lit,
        or_eq_zero, or_mod32, or_lt_2p31, Nat.mod_mod, Nat.zero_or, Nat.or_zero,
        Nat.sub_zero, Nat.add_mod_right, lane_eq, Machine.io_eq_get, Nat.xor_self,
        Loc.x.injEq, Loc.g.injEq, Loc.m.injEq, Bool.toNat_eq_zero, Bool.toNat_eq_one,
        Nat.reducePow, Nat.reduceMul, Nat.reduceMod, Nat.reduceAdd, Nat.reduceSub,
        Nat.reduceDiv, Nat.reduceEqDiff, Nat.reduceLTLE, Nat.reduceLeDiff, Nat.reduceLT,
        Nat.reduceGT, Nat.reduceOr, Nat.reduceXor, reduceCtorEq, Bool.not_eq_true',
        Bool.not_eq_true, decide_eq_true_eq, decide_eq_false_iff_not, Bool.and_eq_true,
        Bool.or_eq_true, bne_iff_ne, beq_iff_eq, ne_eq, Bool.not_eq_false',
        Bool.not_eq_false, decide_not, not_not, Bool.decide_eq_true, Bool.false_eq_true,
        Bool.true_eq_false, not_false_eq_true, not_true_eq_false, and_true, true_and,
        and_false, false_and, or_true, true_or, or_false, false_or, not_true,
        not_false_iff, iff_self, true_iff, iff_true, false_iff, iff_false, ite_self,
        decide_eq_decide, decide_False, decide_True, Bool.not_true, Bool.not_false]
    all_goals omega
  · set_option maxRecDepth 8000 in
    simp only [
        ↓reduceIte, hy, f64Div_one_zero, ↓fast_pow.pow_L_2TAG_PACKET_8_0_2_1_sem,
        ↓fast_pow.pow_L_2TAG_PACKET_0_0_2_3_sem, ↓fast_pow.pow_L_2TAG_PACKET_0_0_2_2_sem,
        ↓fast_pow.pow_L_2TAG_PACKET_0_0_2_1_sem, ↓fast_pow.pow_B1_2_1_sem,
        ↓fast_pow.pow_start_1_sem, ↓fast_pow.pow_entry_1_sem, ↓Machine.get_setx,
        ↓Machine.get_setg, ↓Machine.get_setstk, ↓Machine.get_enter, ↓Machine.get_setFlags,
        ↓Machine.trace_set, ↓Machine.get_ite, ↓Machine.trace_ite, ↓Machine.obs_eq_get,
        ↓Machine.flags_get, ↓Machine.flags_trace, ↓sem_get_1, ↓sem_get_2, ↓sem_get_3,
        ↓sem_get_4, ↓sem_trace_1, ↓sem_trace_2, ↓sem_trace_3, ↓sem_trace_4, ↓load_const,
        cc_iff, ea, and_imm, and_imm_left, ilog2_lit, or_eq_zero, or_mod32, or_lt_2p31,
        Nat.mod_mod, Nat.zero_or, Nat.or_zero, Nat.sub_zero, Nat.add_mod_right, lane_eq,
        Machine.io_eq_get, Nat.xor_self, Loc.x.injEq, Loc.g.injEq, Loc.m.injEq,
        Bool.toNat_eq_zero, Bool.toNat_eq_one, Nat.reducePow, Nat.reduceMul,
        Nat.reduceMod, Nat.reduceAdd, Nat.reduceSub, Nat.reduceDiv, Nat.reduceEqDiff,
        Nat.reduceLTLE, Nat.reduceLeDiff, Nat.reduceLT, Nat.reduceGT, Nat.reduceOr,
        Nat.reduceXor, reduceCtorEq, Bool.not_eq_true', Bool.not_eq_true,
        decide_eq_true_eq, decide_eq_false_iff_not, Bool.and_eq_true, Bool.or_eq_true,
        bne_iff_ne, beq_iff_eq, ne_eq, Bool.not_eq_false', Bool.not_eq_false, decide_not,
        not_not, Bool.decide_eq_true, Bool.false_eq_true, Bool.true_eq_false,
        not_false_eq_true, not_true_eq_false, and_true, true_and, and_false, false_and,
        or_true, true_or, or_false, false_or, not_true, not_false_iff, iff_self, true_iff,
        iff_true, false_iff, iff_false, ite_self, decide_eq_decide, decide_False,
        decide_True, Bool.not_true, Bool.not_false]
    all_goals omega
  · set_option maxRecDepth 8000 in
    simp only [
        ↓reduceIte, hy, f64Div_one_zero, ↓fast_pow.pow_L_2TAG_PACKET_0_0_2_2_sem,
        ↓fast_pow.pow_L_2TAG_PACKET_0_0_2_1_sem, ↓fast_pow.pow_B1_2_1_sem,
        ↓fast_pow.pow_start_1_sem, ↓fast_pow.pow_entry_1_sem, ↓Machine.get_setx,
        ↓Machine.get_setg, ↓Machine.get_setstk, ↓Machine.get_enter, ↓Machine.get_setFlags,
        ↓Machine.trace_set, ↓Machine.get_ite, ↓Machine.trace_ite, ↓Machine.obs_eq_get,
        ↓Machine.flags_get, ↓Machine.flags_trace, ↓sem_get_1, ↓sem_get_2, ↓sem_get_3,
        ↓sem_get_4, ↓sem_trace_1, ↓sem_trace_2, ↓sem_trace_3, ↓sem_trace_4, ↓load_const,
        cc_iff, ea, and_imm, and_imm_left, ilog2_lit, or_eq_zero, or_mod32, or_lt_2p31,
        Nat.mod_mod, Nat.zero_or, Nat.or_zero, Nat.sub_zero, Nat.add_mod_right, lane_eq,
        Machine.io_eq_get, Nat.xor_self, Loc.x.injEq, Loc.g.injEq, Loc.m.injEq,
        Bool.toNat_eq_zero, Bool.toNat_eq_one, Nat.reducePow, Nat.reduceMul,
        Nat.reduceMod, Nat.reduceAdd, Nat.reduceSub, Nat.reduceDiv, Nat.reduceEqDiff,
        Nat.reduceLTLE, Nat.reduceLeDiff, Nat.reduceLT, Nat.reduceGT, Nat.reduceOr,
        Nat.reduceXor, reduceCtorEq, Bool.not_eq_true', Bool.not_eq_true,
        decide_eq_true_eq, decide_eq_false_iff_not, Bool.and_eq_true, Bool.or_eq_true,
        bne_iff_ne, beq_iff_eq, ne_eq, Bool.not_eq_false', Bool.not_eq_false, decide_not,
        not_not, Bool.decide_eq_true, Bool.false_eq_true, Bool.true_eq_false,
        not_false_eq_true, not_true_eq_false, and_true, true_and, and_false, false_and,
        or_true, true_or, or_false, false_or, not_true, not_false_iff, iff_self, true_iff,
        iff_true, false_iff, iff_false, ite_self, decide_eq_decide, decide_False,
        decide_True, Bool.not_true, Bool.not_false]
    all_goals omega
  · set_option maxRecDepth 8000 in
    simp only [
        ↓reduceIte, hy, f64Div_one_zero, ↓fast_pow.pow_L_2TAG_PACKET_0_0_2_1_sem,
        ↓fast_pow.pow_B1_2_1_sem, ↓fast_pow.pow_start_1_sem, ↓fast_pow.pow_entry_1_sem,
        ↓Machine.get_setx, ↓Machine.get_setg, ↓Machine.get_setstk, ↓Machine.get_enter,
        ↓Machine.get_setFlags, ↓Machine.trace_set, ↓Machine.get_ite, ↓Machine.trace_ite,
        ↓Machine.obs_eq_get, ↓Machine.flags_get, ↓Machine.flags_trace, ↓sem_get_1,
        ↓sem_get_2, ↓sem_get_3, ↓sem_get_4, ↓sem_trace_1, ↓sem_trace_2, ↓sem_trace_3,
        ↓sem_trace_4, ↓load_const, cc_iff, ea, and_imm, and_imm_left, ilog2_lit,
        or_eq_zero, or_mod32, or_lt_2p31, Nat.mod_mod, Nat.zero_or, Nat.or_zero,
        Nat.sub_zero, Nat.add_mod_right, lane_eq, Machine.io_eq_get, Nat.xor_self,
        Loc.x.injEq, Loc.g.injEq, Loc.m.injEq, Bool.toNat_eq_zero, Bool.toNat_eq_one,
        Nat.reducePow, Nat.reduceMul, Nat.reduceMod, Nat.reduceAdd, Nat.reduceSub,
        Nat.reduceDiv, Nat.reduceEqDiff, Nat.reduceLTLE, Nat.reduceLeDiff, Nat.reduceLT,
        Nat.reduceGT, Nat.reduceOr, Nat.reduceXor, reduceCtorEq, Bool.not_eq_true',
        Bool.not_eq_true, decide_eq_true_eq, decide_eq_false_iff_not, Bool.and_eq_true,
        Bool.or_eq_true, bne_iff_ne, beq_iff_eq, ne_eq, Bool.not_eq_false',
        Bool.not_eq_false, decide_not, not_not, Bool.decide_eq_true, Bool.false_eq_true,
        Bool.true_eq_false, not_false_eq_true, not_true_eq_false, and_true, true_and,
        and_false, false_and, or_true, true_or, or_false, false_or, not_true,
        not_false_iff, iff_self, true_iff, iff_true, false_iff, iff_false, ite_self,
        decide_eq_decide, decide_False, decide_True, Bool.not_true, Bool.not_false]
    all_goals omega
  · set_option maxRecDepth 8000 in
    simp only [
        ↓reduceIte, hy, f64Div_one_zero, ↓fast_pow.pow_B1_2_1_sem,
        ↓fast_pow.pow_start_1_sem, ↓fast_pow.pow_entry_1_sem, ↓Machine.get_setx,
        ↓Machine.get_setg, ↓Machine.get_setstk, ↓Machine.get_enter, ↓Machine.get_setFlags,
        ↓Machine.trace_set, ↓Machine.get_ite, ↓Machine.trace_ite, ↓Machine.obs_eq_get,
        ↓Machine.flags_get, ↓Machine.flags_trace, ↓sem_get_1, ↓sem_get_2, ↓sem_get_3,
        ↓sem_get_4, ↓sem_trace_1, ↓sem_trace_2, ↓sem_trace_3, ↓sem_trace_4, ↓load_const,
        cc_iff, ea, and_imm, and_imm_left, ilog2_lit, or_eq_zero, or_mod32, or_lt_2p31,
        Nat.mod_mod, Nat.zero_or, Nat.or_zero, Nat.sub_zero, Nat.add_mod_right, lane_eq,
        Machine.io_eq_get, Nat.xor_self, Loc.x.injEq, Loc.g.injEq, Loc.m.injEq,
        Bool.toNat_eq_zero, Bool.toNat_eq_one, Nat.reducePow, Nat.reduceMul,
        Nat.reduceMod, Nat.reduceAdd, Nat.reduceSub, Nat.reduceDiv, Nat.reduceEqDiff,
        Nat.reduceLTLE, Nat.reduceLeDiff, Nat.reduceLT, Nat.reduceGT, Nat.reduceOr,
        Nat.reduceXor, reduceCtorEq, Bool.not_eq_true', Bool.not_eq_true,
        decide_eq_true_eq, decide_eq_false_iff_not, Bool.and_eq_true, Bool.or_eq_true,
        bne_iff_ne, beq_iff_eq, ne_eq, Bool.not_eq_false', Bool.not_eq_false, decide_not,
        not_not, Bool.decide_eq_true, Bool.false_eq_true, Bool.true_eq_false,
        not_false_eq_true, not_true_eq_false, and_true, true_and, and_false, false_and,
        or_true, true_or, or_false, false_or, not_true, not_false_iff, iff_self, true_iff,
        iff_true, false_iff, iff_false, ite_self, decide_eq_decide, decide_False,
        decide_True, Bool.not_true, Bool.not_false]
    all_goals omega

theorem fast_pow_nzero_pinf_run (cpu : Cpu) (s : Machine) (hx : s.arg0 = 0x8000000000000000)
    (hy : s.arg1 = 0x7FF0000000000000) : (fast_pow cpu s).result = 0 := by
  simp only [Machine.io_eq_get, Nat.reducePow] at hx hy
  rw [
      fast_pow, fast_pow.pow_entry_eq, fast_pow.pow_start_eq, fast_pow.pow_B1_2_eq, if_pos,
      fast_pow.pow_L_2TAG_PACKET_0_0_2_eq, if_neg, if_pos,
      fast_pow.pow_L_2TAG_PACKET_7_0_2_eq, if_pos, fast_pow.pow_L_2TAG_PACKET_9_0_2_eq,
      if_neg, if_neg, fast_pow.pow_L_2TAG_PACKET_40_0_2_eq, if_neg, if_pos,
      fast_pow.pow_L_2TAG_PACKET_41_0_2_eq, if_pos, fast_pow.pow_L_2TAG_PACKET_22_0_2_eq,
      fast_pow.pow_B1_5_eq]
  · set_option maxRecDepth 8000 in
    simp only [
        ↓reduceIte, hy, ↓fast_pow.pow_B1_5_1_sem,
        ↓fast_pow.pow_L_2TAG_PACKET_22_0_2_1_sem,
        ↓fast_pow.pow_L_2TAG_PACKET_41_0_2_1_sem,
        ↓fast_pow.pow_L_2TAG_PACKET_40_0_2_2_sem,
        ↓fast_pow.pow_L_2TAG_PACKET_40_0_2_1_sem, ↓fast_pow.pow_L_2TAG_PACKET_9_0_2_3_sem,
        ↓fast_pow.pow_L_2TAG_PACKET_9_0_2_2_sem, ↓fast_pow.pow_L_2TAG_PACKET_9_0_2_1_sem,
        ↓fast_pow.pow_L_2TAG_PACKET_7_0_2_1_sem, ↓fast_pow.pow_L_2TAG_PACKET_0_0_2_2_sem,
        ↓fast_pow.pow_L_2TAG_PACKET_0_0_2_1_sem, ↓fast_pow.pow_B1_2_1_sem,
        ↓fast_pow.pow_start_1_sem, ↓fast_pow.pow_entry_1_sem, ↓Machine.get_setx,
        ↓Machine.get_setg, ↓Machine.get_setstk, ↓Machine.get_enter, ↓Machine.get_setFlags,
        ↓Machine.trace_set, ↓Machine.get_ite, ↓Machine.trace_ite, ↓Machine.obs_eq_get,
        ↓Machine.flags_get, ↓Machine.flags_trace, ↓sem_get_1, ↓sem_get_2, ↓sem_get_3,
        ↓sem_get_4, ↓sem_trace_1, ↓sem_trace_2, ↓sem_trace_3, ↓sem_trace_4, ↓load_const,
        cc_iff, ea, and_imm, and_imm_left, ilog2_lit, or_eq_zero, or_mod32, or_lt_2p31,
        Nat.mod_mod, Nat.zero_or, Nat.or_zero, Nat.sub_zero, Nat.add_mod_right, lane_eq,
        Machine.io_eq_get, Nat.xor_self, Loc.x.injEq, Loc.g.injEq, Loc.m.injEq,
        Bool.toNat_eq_zero, Bool.toNat_eq_one, Nat.reducePow, Nat.reduceMul,
        Nat.reduceMod, Nat.reduceAdd, Nat.reduceSub, Nat.reduceDiv, Nat.reduceEqDiff,
        Nat.reduceLTLE, Nat.reduceLeDiff, Nat.reduceLT, Nat.reduceGT, Nat.reduceOr,
        Nat.reduceXor, reduceCtorEq, Bool.not_eq_true', Bool.not_eq_true,
        decide_eq_true_eq, decide_eq_false_iff_not, Bool.and_eq_true, Bool.or_eq_true,
        bne_iff_ne, beq_iff_eq, ne_eq, Bool.not_eq_false', Bool.not_eq_false, decide_not,
        not_not, Bool.decide_eq_true, Bool.false_eq_true, Bool.true_eq_false,
        not_false_eq_true, not_true_eq_false, and_true, true_and, and_false, false_and,
        or_true, true_or, or_false, false_or, not_true, not_false_iff, iff_self, true_iff,
        iff_true, false_iff, iff_false, ite_self, decide_eq_decide, decide_False,
        decide_True, Bool.not_true, Bool.not_false]
  · set_option maxRecDepth 8000 in
    simp only [
        ↓reduceIte, hy, ↓fast_pow.pow_L_2TAG_PACKET_41_0_2_1_sem,
        ↓fast_pow.pow_L_2TAG_PACKET_40_0_2_2_sem,
        ↓fast_pow.pow_L_2TAG_PACKET_40_0_2_1_sem, ↓fast_pow.pow_L_2TAG_PACKET_9_0_2_3_sem,
        ↓fast_pow.pow_L_2TAG_PACKET_9_0_2_2_sem, ↓fast_pow.pow_L_2TAG_PACKET_9_0_2_1_sem,
        ↓fast_pow.pow_L_2TAG_PACKET_7_0_2_1_sem, ↓fast_pow.pow_L_2TAG_PACKET_0_0_2_2_sem,
        ↓fast_pow.pow_L_2TAG_PACKET_0_0_2_1_sem, ↓fast_pow.pow_B1_2_1_sem,
        ↓fast_pow.pow_start_1_sem, ↓fast_pow.pow_entry_1_sem, ↓Machine.get_setx,
        ↓Machine.get_setg, ↓Machine.get_setstk, ↓Machine.get_enter, ↓Machine.get_setFlags,
        ↓Machine.trace_set, ↓Machine.get_ite, ↓Machine.trace_ite, ↓Machine.obs_eq_get,
        ↓Machine.flags_get, ↓Machine.flags_trace, ↓sem_get_1, ↓sem_get_2, ↓sem_get_3,
        ↓sem_get_4, ↓sem_trace_1, ↓sem_trace_2, ↓sem_trace_3, ↓sem_trace_4, ↓load_const,
        cc_iff, ea, and_imm, and_imm_left, ilog2_lit, or_eq_zero, or_mod32, or_lt_2p31,
        Nat.mod_mod, Nat.zero_or, Nat.or_zero, Nat.sub_zero, Nat.add_mod_right, lane_eq,
        Machine.io_eq_get, Nat.xor_self, Loc.x.injEq, Loc.g.injEq, Loc.m.injEq,
        Bool.toNat_eq_zero, Bool.toNat_eq_one, Nat.reducePow, Nat.reduceMul,
        Nat.reduceMod, Nat.reduceAdd, Nat.reduceSub, Nat.reduceDiv, Nat.reduceEqDiff,
        Nat.reduceLTLE, Nat.reduceLeDiff, Nat.reduceLT, Nat.reduceGT, Nat.reduceOr,
        Nat.reduceXor, reduceCtorEq, Bool.not_eq_true', Bool.not_eq_true,
        decide_eq_true_eq, decide_eq_false_iff_not, Bool.and_eq_true, Bool.or_eq_true,
        bne_iff_ne, beq_iff_eq, ne_eq, Bool.not_eq_false', Bool.not_eq_false, decide_not,
        not_not, Bool.decide_eq_true, Bool.false_eq_true, Bool.true_eq_false,
        not_false_eq_true, not_true_eq_false, and_true, true_and, and_false, false_and,
        or_true, true_or, or_false, false_or, not_true, not_false_iff, iff_self, true_iff,
        iff_true, false_iff, iff_false, ite_self, decide_eq_decide, decide_False,
        decide_True, Bool.not_true, Bool.not_false]
    all_goals omega
  · set_option maxRecDepth 8000 in
    simp only [
        ↓reduceIte, hy, ↓fast_pow.pow_L_2TAG_PACKET_40_0_2_2_sem,
        ↓fast_pow.pow_L_2TAG_PACKET_40_0_2_1_sem, ↓fast_pow.pow_L_2TAG_PACKET_9_0_2_3_sem,
        ↓fast_pow.pow_L_2TAG_PACKET_9_0_2_2_sem, ↓fast_pow.pow_L_2TAG_PACKET_9_0_2_1_sem,
        ↓fast_pow.pow_L_2TAG_PACKET_7_0_2_1_sem, ↓fast_pow.pow_L_2TAG_PACKET_0_0_2_2_sem,
        ↓fast_pow.pow_L_2TAG_PACKET_0_0_2_1_sem, ↓fast_pow.pow_B1_2_1_sem,
        ↓fast_pow.pow_start_1_sem, ↓fast_pow.pow_entry_1_sem, ↓Machine.get_setx,
        ↓Machine.get_setg, ↓Machine.get_setstk, ↓Machine.get_enter, ↓Machine.get_setFlags,
        ↓Machine.trace_set, ↓Machine.get_ite, ↓Machine.trace_ite, ↓Machine.obs_eq_get,
        ↓Machine.flags_get, ↓Machine.flags_trace, ↓sem_get_1, ↓sem_get_2, ↓sem_get_3,
        ↓sem_get_4, ↓sem_trace_1, ↓sem_trace_2, ↓sem_trace_3, ↓sem_trace_4, ↓load_const,
        cc_iff, ea, and_imm, and_imm_left, ilog2_lit, or_eq_zero, or_mod32, or_lt_2p31,
        Nat.mod_mod, Nat.zero_or, Nat.or_zero, Nat.sub_zero, Nat.add_mod_right, lane_eq,
        Machine.io_eq_get, Nat.xor_self, Loc.x.injEq, Loc.g.injEq, Loc.m.injEq,
        Bool.toNat_eq_zero, Bool.toNat_eq_one, Nat.reducePow, Nat.reduceMul,
        Nat.reduceMod, Nat.reduceAdd, Nat.reduceSub, Nat.reduceDiv, Nat.reduceEqDiff,
        Nat.reduceLTLE, Nat.reduceLeDiff, Nat.reduceLT, Nat.reduceGT, Nat.reduceOr,
        Nat.reduceXor, reduceCtorEq, Bool.not_eq_true', Bool.not_eq_true,
        decide_eq_true_eq, decide_eq_false_iff_not, Bool.and_eq_true, Bool.or_eq_true,
        bne_iff_ne, beq_iff_eq, ne_eq, Bool.not_eq_false', Bool.not_eq_false, decide_not,
        not_not, Bool.decide_eq_true, Bool.false_eq_true, Bool.true_eq_false,
        not_false_eq_true, not_true_eq_false, and_true, true_and, and_false, false_and,
        or_true, true_or, or_false, false_or, not_true, not_false_iff, iff_self, true_iff,
        iff_true, false_iff, iff_false, ite_self, decide_eq_decide, decide_False,
        decide_True, Bool.not_true, Bool.not_false]
    all_goals omega
  · set_option maxRecDepth 8000 in
    simp only [
        ↓reduceIte, hy, ↓fast_pow.pow_L_2TAG_PACKET_40_0_2_1_sem,
        ↓fast_pow.pow_L_2TAG_PACKET_9_0_2_3_sem, ↓fast_pow.pow_L_2TAG_PACKET_9_0_2_2_sem,
        ↓fast_pow.pow_L_2TAG_PACKET_9_0_2_1_sem, ↓fast_pow.pow_L_2TAG_PACKET_7_0_2_1_sem,
        ↓fast_pow.pow_L_2TAG_PACKET_0_0_2_2_sem, ↓fast_pow.pow_L_2TAG_PACKET_0_0_2_1_sem,
        ↓fast_pow.pow_B1_2_1_sem, ↓fast_pow.pow_start_1_sem, ↓fast_pow.pow_entry_1_sem,
        ↓Machine.get_setx, ↓Machine.get_setg, ↓Machine.get_setstk, ↓Machine.get_enter,
        ↓Machine.get_setFlags, ↓Machine.trace_set, ↓Machine.get_ite, ↓Machine.trace_ite,
        ↓Machine.obs_eq_get, ↓Machine.flags_get, ↓Machine.flags_trace, ↓sem_get_1,
        ↓sem_get_2, ↓sem_get_3, ↓sem_get_4, ↓sem_trace_1, ↓sem_trace_2, ↓sem_trace_3,
        ↓sem_trace_4, ↓load_const, cc_iff, ea, and_imm, and_imm_left, ilog2_lit,
        or_eq_zero, or_mod32, or_lt_2p31, Nat.mod_mod, Nat.zero_or, Nat.or_zero,
        Nat.sub_zero, Nat.add_mod_right, lane_eq, Machine.io_eq_get, Nat.xor_self,
        Loc.x.injEq, Loc.g.injEq, Loc.m.injEq, Bool.toNat_eq_zero, Bool.toNat_eq_one,
        Nat.reducePow, Nat.reduceMul, Nat.reduceMod, Nat.reduceAdd, Nat.reduceSub,
        Nat.reduceDiv, Nat.reduceEqDiff, Nat.reduceLTLE, Nat.reduceLeDiff, Nat.reduceLT,
        Nat.reduceGT, Nat.reduceOr, Nat.reduceXor, reduceCtorEq, Bool.not_eq_true',
        Bool.not_eq_true, decide_eq_true_eq, decide_eq_false_iff_not, Bool.and_eq_true,
        Bool.or_eq_true, bne_iff_ne, beq_iff_eq, ne_eq, Bool.not_eq_false',
        Bool.not_eq_false, decide_not, not_not, Bool.decide_eq_true, Bool.false_eq_true,
        Bool.true_eq_false, not_false_eq_true, not_true_eq_false, and_true, true_and,
        and_false, false_and, or_true, true_or, or_false, false_or, not_true,
        not_false_iff, iff_self, true_iff, iff_true, false_iff, iff_false, ite_self,
        decide_eq_decide, decide_False, decide_True, Bool.not_true, Bool.not_false]
    all_goals omega
  · set_option maxRecDepth 8000 in
    simp only [
        ↓reduceIte, hy, ↓fast_pow.pow_L_2TAG_PACKET_9_0_2_2_sem,
        ↓fast_pow.pow_L_2TAG_PACKET_9_0_2_1_sem, ↓fast_pow.pow_L_2TAG_PACKET_7_0_2_1_sem,
        ↓fast_pow.pow_L_2TAG_PACKET_0_0_2_2_sem, ↓fast_pow.pow_L_2TAG_PACKET_0_0_2_1_sem,
        ↓fast_pow.pow_B1_2_1_sem, ↓fast_pow.pow_start_1_sem, ↓fast_pow.pow_entry_1_sem,
        ↓Machine.get_setx, ↓Machine.get_setg, ↓Machine.get_setstk, ↓Machine.get_enter,
        ↓Machine.get_setFlags, ↓Machine.trace_set, ↓Machine.get_ite, ↓Machine.trace_ite,
        ↓Machine.obs_eq_get, ↓Machine.flags_get, ↓Machine.flags_trace, ↓sem_get_1,
        ↓sem_get_2, ↓sem_get_3, ↓sem_get_4, ↓sem_trace_1, ↓sem_trace_2, ↓sem_trace_3,
        ↓sem_trace_4, ↓load_const, cc_iff, ea, and_imm, and_imm_left, ilog2_lit,
        or_eq_zero, or_mod32, or_lt_2p31, Nat.mod_mod, Nat.zero_or, Nat.or_zero,
        Nat.sub_zero, Nat.add_mod_right, lane_eq, Machine.io_eq_get, Nat.xor_self,
        Loc.x.injEq, Loc.g.injEq, Loc.m.injEq, Bool.toNat_eq_zero, Bool.toNat_eq_one,
        Nat.reducePow, Nat.reduceMul, Nat.reduceMod, Nat.reduceAdd, Nat.reduceSub,
        Nat.reduceDiv, Nat.reduceEqDiff, Nat.reduceLTLE, Nat.reduceLeDiff, Nat.reduceLT,
        Nat.reduceGT, Nat.reduceOr, Nat.reduceXor, reduceCtorEq, Bool.not_eq_true',
        Bool.not_eq_true, decide_eq_true_eq, decide_eq_false_iff_not, Bool.and_eq_true,
        Bool.or_eq_true, bne_iff_ne, beq_iff_eq, ne_eq, Bool.not_eq_false',
        Bool.not_eq_false, decide_not, not_not, Bool.decide_eq_true, Bool.false_eq_true,
        Bool.true_eq_false, not_false_eq_true, not_true_eq_false, and_true, true_and,
        and_false, false_and, or_true, true_or, or_false, false_or, not_true,
        not_false_iff, iff_self, true_iff, iff_true, false_iff, iff_false, ite_self,
        decide_eq_decide, decide_False, decide_True, Bool.not_true, Bool.not_false]
    all_goals omega
  · set_option maxRecDepth 8000 in
    simp only [
        ↓reduceIte, hy, ↓fast_pow.pow_L_2TAG_PACKET_9_0_2_1_sem,
        ↓fast_pow.pow_L_2TAG_PACKET_7_0_2_1_sem, ↓fast_pow.pow_L_2TAG_PACKET_0_0_2_2_sem,
        ↓fast_pow.pow_L_2TAG_PACKET_0_0_2_1_sem, ↓fast_pow.pow_B1_2_1_sem,
        ↓fast_pow.pow_start_1_sem, ↓fast_pow.pow_entry_1_sem, ↓Machine.get_setx,
        ↓Machine.get_setg, ↓Machine.get_setstk, ↓Machine.get_enter, ↓Machine.get_setFlags,
        ↓Machine.trace_set, ↓Machine.get_ite, ↓Machine.trace_ite, ↓Machine.obs_eq_get,
        ↓Machine.flags_get, ↓Machine.flags_trace, ↓sem_get_1, ↓sem_get_2, ↓sem_get_3,
        ↓sem_get_4, ↓sem_trace_1, ↓sem_trace_2, ↓sem_trace_3, ↓sem_trace_4, ↓load_const,
        cc_iff, ea, and_imm, and_imm_left, ilog2_lit, or_eq_zero, or_mod32, or_lt_2p31,
        Nat.mod_mod, Nat.zero_or, Nat.or_zero, Nat.sub_zero, Nat.add_mod_right, lane_eq,
        Machine.io_eq_get, Nat.xor_self, Loc.x.injEq, Loc.g.injEq, Loc.m.injEq,
        Bool.toNat_eq_zero, Bool.toNat_eq_one, Nat.reducePow, Nat.reduceMul,
        Nat.reduceMod, Nat.reduceAdd, Nat.reduceSub, Nat.reduceDiv, Nat.reduceEqDiff,
        Nat.reduceLTLE, Nat.reduceLeDiff, Nat.reduceLT, Nat.reduceGT, Nat.reduceOr,
        Nat.reduceXor, reduceCtorEq, Bool.not_eq_true', Bool.not_eq_true,
        decide_eq_true_eq, decide_eq_false_iff_not, Bool.and_eq_true, Bool.or_eq_true,
        bne_iff_ne, beq_iff_eq, ne_eq, Bool.not_eq_false', Bool.not_eq_false, decide_not,
        not_not, Bool.decide_eq_true, Bool.false_eq_true, Bool.true_eq_false,
        not_false_eq_true, not_true_eq_false, and_true, true_and, and_false, false_and,
        or_true, true_or, or_false, false_or, not_true, not_false_iff, iff_self, true_iff,
        iff_true, false_iff, iff_false, ite_self, decide_eq_decide, decide_False,
        decide_True, Bool.not_true, Bool.not_false]
    all_goals omega
  · set_option maxRecDepth 8000 in
    simp only [
        ↓reduceIte, hy, ↓fast_pow.pow_L_2TAG_PACKET_7_0_2_1_sem,
        ↓fast_pow.pow_L_2TAG_PACKET_0_0_2_2_sem, ↓fast_pow.pow_L_2TAG_PACKET_0_0_2_1_sem,
        ↓fast_pow.pow_B1_2_1_sem, ↓fast_pow.pow_start_1_sem, ↓fast_pow.pow_entry_1_sem,
        ↓Machine.get_setx, ↓Machine.get_setg, ↓Machine.get_setstk, ↓Machine.get_enter,
        ↓Machine.get_setFlags, ↓Machine.trace_set, ↓Machine.get_ite, ↓Machine.trace_ite,
        ↓Machine.obs_eq_get, ↓Machine.flags_get, ↓Machine.flags_trace, ↓sem_get_1,
        ↓sem_get_2, ↓sem_get_3, ↓sem_get_4, ↓sem_trace_1, ↓sem_trace_2, ↓sem_trace_3,
        ↓sem_trace_4, ↓load_const, cc_iff, ea, and_imm, and_imm_left, ilog2_lit,
        or_eq_zero, or_mod32, or_lt_2p31, Nat.mod_mod, Nat.zero_or, Nat.or_zero,
        Nat.sub_zero, Nat.add_mod_right, lane_eq, Machine.io_eq_get, Nat.xor_self,
        Loc.x.injEq, Loc.g.injEq, Loc.m.injEq, Bool.toNat_eq_zero, Bool.toNat_eq_one,
        Nat.reducePow, Nat.reduceMul, Nat.reduceMod, Nat.reduceAdd, Nat.reduceSub,
        Nat.reduceDiv, Nat.reduceEqDiff, Nat.reduceLTLE, Nat.reduceLeDiff, Nat.reduceLT,
        Nat.reduceGT, Nat.reduceOr, Nat.reduceXor, reduceCtorEq, Bool.not_eq_true',
        Bool.not_eq_true, decide_eq_true_eq, decide_eq_false_iff_not, Bool.and_eq_true,
        Bool.or_eq_true, bne_iff_ne, beq_iff_eq, ne_eq, Bool.not_eq_false',
        Bool.not_eq_false, decide_not, not_not, Bool.decide_eq_true, Bool.false_eq_true,
        Bool.true_eq_false, not_false_eq_true, not_true_eq_false, and_true, true_and,
        and_false, false_and, or_true, true_or, or_false, false_or, not_true,
        not_false_iff, iff_self, true_iff, iff_true, false_iff, iff_false, ite_self,
        decide_eq_decide, decide_False, decide_True, Bool.not_true, Bool.not_false]
    all_goals omega
  · set_option maxRecDepth 8000 in
    simp only [
        ↓reduceIte, hy, ↓fast_pow.pow_L_2TAG_PACKET_0_0_2_2_sem,
        ↓fast_pow.pow_L_2TAG_PACKET_0_0_2_1_sem, ↓fast_pow.pow_B1_2_1_sem,
        ↓fast_pow.pow_start_1_sem, ↓fast_pow.pow_entry_1_sem, ↓Machine.get_setx,
        ↓Machine.get_setg, ↓Machine.get_setstk, ↓Machine.get_enter, ↓Machine.get_setFlags,
        ↓Machine.trace_set, ↓Machine.get_ite, ↓Machine.trace_ite, ↓Machine.obs_eq_get,
        ↓Machine.flags_get, ↓Machine.flags_trace, ↓sem_get_1, ↓sem_get_2, ↓sem_get_3,
        ↓sem_get_4, ↓sem_trace_1, ↓sem_trace_2, ↓sem_trace_3, ↓sem_trace_4, ↓load_const,
        cc_iff, ea, and_imm, and_imm_left, ilog2_lit, or_eq_zero, or_mod32, or_lt_2p31,
        Nat.mod_mod, Nat.zero_or, Nat.or_zero, Nat.sub_zero, Nat.add_mod_right, lane_eq,
        Machine.io_eq_get, Nat.xor_self, Loc.x.injEq, Loc.g.injEq, Loc.m.injEq,
        Bool.toNat_eq_zero, Bool.toNat_eq_one, Nat.reducePow, Nat.reduceMul,
        Nat.reduceMod, Nat.reduceAdd, Nat.reduceSub, Nat.reduceDiv, Nat.reduceEqDiff,
        Nat.reduceLTLE, Nat.reduceLeDiff, Nat.reduceLT, Nat.reduceGT, Nat.reduceOr,
        Nat.reduceXor, reduceCtorEq, Bool.not_eq_true', Bool.not_eq_true,
        decide_eq_true_eq, decide_eq_false_iff_not, Bool.and_eq_true, Bool.or_eq_true,
        bne_iff_ne, beq_iff_eq, ne_eq, Bool.not_eq_false', Bool.not_eq_false, decide_not,
        not_not, Bool.decide_eq_true, Bool.false_eq_true, Bool.true_eq_false,
        not_false_eq_true, not_true_eq_false, and_true, true_and, and_false, false_and,
        or_true, true_or, or_false, false_or, not_true, not_false_iff, iff_self, true_iff,
        iff_true, false_iff, iff_false, ite_self, decide_eq_decide, decide_False,
        decide_True, Bool.not_true, Bool.not_false]
    all_goals omega
  · set_option maxRecDepth 8000 in
    simp only [
        ↓reduceIte, hy, ↓fast_pow.pow_L_2TAG_PACKET_0_0_2_1_sem, ↓fast_pow.pow_B1_2_1_sem,
        ↓fast_pow.pow_start_1_sem, ↓fast_pow.pow_entry_1_sem, ↓Machine.get_setx,
        ↓Machine.get_setg, ↓Machine.get_setstk, ↓Machine.get_enter, ↓Machine.get_setFlags,
        ↓Machine.trace_set, ↓Machine.get_ite, ↓Machine.trace_ite, ↓Machine.obs_eq_get,
        ↓Machine.flags_get, ↓Machine.flags_trace, ↓sem_get_1, ↓sem_get_2, ↓sem_get_3,
        ↓sem_get_4, ↓sem_trace_1, ↓sem_trace_2, ↓sem_trace_3, ↓sem_trace_4, ↓load_const,
        cc_iff, ea, and_imm, and_imm_left, ilog2_lit, or_eq_zero, or_mod32, or_lt_2p31,
        Nat.mod_mod, Nat.zero_or, Nat.or_zero, Nat.sub_zero, Nat.add_mod_right, lane_eq,
        Machine.io_eq_get, Nat.xor_self, Loc.x.injEq, Loc.g.injEq, Loc.m.injEq,
        Bool.toNat_eq_zero, Bool.toNat_eq_one, Nat.reducePow, Nat.reduceMul,
        Nat.reduceMod, Nat.reduceAdd, Nat.reduceSub, Nat.reduceDiv, Nat.reduceEqDiff,
        Nat.reduceLTLE, Nat.reduceLeDiff, Nat.reduceLT, Nat.reduceGT, Nat.reduceOr,
        Nat.reduceXor, reduceCtorEq, Bool.not_eq_true', Bool.not_eq_true,
        decide_eq_true_eq, decide_eq_false_iff_not, Bool.and_eq_true, Bool.or_eq_true,
        bne_iff_ne, beq_iff_eq, ne_eq, Bool.not_eq_false', Bool.not_eq_false, decide_not,
        not_not, Bool.decide_eq_true, Bool.false_eq_true, Bool.true_eq_false,
        not_false_eq_true, not_true_eq_false, and_true, true_and, and_false, false_and,
        or_true, true_or, or_false, false_or, not_true, not_false_iff, iff_self, true_iff,
        iff_true, false_iff, iff_false, ite_self, decide_eq_decide, decide_False,
        decide_True, Bool.not_true, Bool.not_false]
    all_goals omega
  · set_option maxRecDepth 8000 in
    simp only [
        ↓reduceIte, hy, ↓fast_pow.pow_B1_2_1_sem, ↓fast_pow.pow_start_1_sem,
        ↓fast_pow.pow_entry_1_sem, ↓Machine.get_setx, ↓Machine.get_setg,
        ↓Machine.get_setstk, ↓Machine.get_enter, ↓Machine.get_setFlags,
        ↓Machine.trace_set, ↓Machine.get_ite, ↓Machine.trace_ite, ↓Machine.obs_eq_get,
        ↓Machine.flags_get, ↓Machine.flags_trace, ↓sem_get_1, ↓sem_get_2, ↓sem_get_3,
        ↓sem_get_4, ↓sem_trace_1, ↓sem_trace_2, ↓sem_trace_3, ↓sem_trace_4, ↓load_const,
        cc_iff, ea, and_imm, and_imm_left, ilog2_lit, or_eq_zero, or_mod32, or_lt_2p31,
        Nat.mod_mod, Nat.zero_or, Nat.or_zero, Nat.sub_zero, Nat.add_mod_right, lane_eq,
        Machine.io_eq_get, Nat.xor_self, Loc.x.injEq, Loc.g.injEq, Loc.m.injEq,
        Bool.toNat_eq_zero, Bool.toNat_eq_one, Nat.reducePow, Nat.reduceMul,
        Nat.reduceMod, Nat.reduceAdd, Nat.reduceSub, Nat.reduceDiv, Nat.reduceEqDiff,
        Nat.reduceLTLE, Nat.reduceLeDiff, Nat.reduceLT, Nat.reduceGT, Nat.reduceOr,
        Nat.reduceXor, reduceCtorEq, Bool.not_eq_true', Bool.not_eq_true,
        decide_eq_true_eq, decide_eq_false_iff_not, Bool.and_eq_true, Bool.or_eq_true,
        bne_iff_ne, beq_iff_eq, ne_eq, Bool.not_eq_false', Bool.not_eq_false, decide_not,
        not_not, Bool.decide_eq_true, Bool.false_eq_true, Bool.true_eq_false,
        not_false_eq_true, not_true_eq_false, and_true, true_and, and_false, false_and,
        or_true, true_or, or_false, false_or, not_true, not_false_iff, iff_self, true_iff,
        iff_true, false_iff, iff_false, ite_self, decide_eq_decide, decide_False,
        decide_True, Bool.not_true, Bool.not_false]
    all_goals omega

theorem fast_pow_nzero_ninf_run (cpu : Cpu) (s : Machine) (hx : s.arg0 = 0x8000000000000000)
    (hy : s.arg1 = 0xFFF0000000000000) :
    (fast_pow cpu s).result = 0x7FF0000000000000 := by
  simp only [Machine.io_eq_get, Nat.reducePow] at hx hy
  rw [
      fast_pow, fast_pow.pow_entry_eq, fast_pow.pow_start_eq, fast_pow.pow_B1_2_eq, if_pos,
      fast_pow.pow_L_2TAG_PACKET_0_0_2_eq, if_neg, if_pos,
      fast_pow.pow_L_2TAG_PACKET_7_0_2_eq, if_pos, fast_pow.pow_L_2TAG_PACKET_9_0_2_eq,
      if_neg, if_neg, fast_pow.pow_L_2TAG_PACKET_40_0_2_eq, if_neg, if_pos,
      fast_pow.pow_L_2TAG_PACKET_41_0_2_eq, if_neg, fast_pow.pow_L_2TAG_PACKET_44_0_2_eq,
      fast_pow.pow_L_2TAG_PACKET_17_0_2_eq, fast_pow.pow_B1_3_eq,
      fast_pow.pow_L_2TAG_PACKET_56_0_2_eq, fast_pow.pow_B1_5_eq]
  · set_option maxRecDepth 8000 in
    simp only [
        ↓reduceIte, hy, f64Div_one_zero, ↓fast_pow.pow_B1_5_1_sem,
        ↓fast_pow.pow_L_2TAG_PACKET_56_0_2_1_sem, ↓fast_pow.pow_B1_3_1_sem,
        ↓fast_pow.pow_L_2TAG_PACKET_17_0_2_1_sem,
        ↓fast_pow.pow_L_2TAG_PACKET_44_0_2_1_sem,
        ↓fast_pow.pow_L_2TAG_PACKET_41_0_2_2_sem,
        ↓fast_pow.pow_L_2TAG_PACKET_41_0_2_1_sem,
        ↓fast_pow.pow_L_2TAG_PACKET_40_0_2_2_sem,
        ↓fast_pow.pow_L_2TAG_PACKET_40_0_2_1_sem, ↓fast_pow.pow_L_2TAG_PACKET_9_0_2_3_sem,
        ↓fast_pow.pow_L_2TAG_PACKET_9_0_2_2_sem, ↓fast_pow.pow_L_2TAG_PACKET_9_0_2_1_sem,
        ↓fast_pow.pow_L_2TAG_PACKET_7_0_2_1_sem, ↓fast_pow.pow_L_2TAG_PACKET_0_0_2_2_sem,
        ↓fast_pow.pow_L_2TAG_PACKET_0_0_2_1_sem, ↓fast_pow.pow_B1_2_1_sem,
        ↓fast_pow.pow_start_1_sem, ↓fast_pow.pow_entry_1_sem, ↓Machine.get_setx,
        ↓Machine.get_setg, ↓Machine.get_setstk, ↓Machine.get_enter, ↓Machine.get_setFlags,
        ↓Machine.trace_set, ↓Machine.get_ite, ↓Machine.trace_ite, ↓Machine.obs_eq_get,
        ↓Machine.flags_get, ↓Machine.flags_trace, ↓sem_get_1, ↓sem_get_2, ↓sem_get_3,
        ↓sem_get_4, ↓sem_trace_1, ↓sem_trace_2, ↓sem_trace_3, ↓sem_trace_4, ↓load_const,
        cc_iff, ea, and_imm, and_imm_left, ilog2_lit, or_eq_zero, or_mod32, or_lt_2p31,
        Nat.mod_mod, Nat.zero_or, Nat.or_zero, Nat.sub_zero, Nat.add_mod_right, lane_eq,
        Machine.io_eq_get, Nat.xor_self, Loc.x.injEq, Loc.g.injEq, Loc.m.injEq,
        Bool.toNat_eq_zero, Bool.toNat_eq_one, Nat.reducePow, Nat.reduceMul,
        Nat.reduceMod, Nat.reduceAdd, Nat.reduceSub, Nat.reduceDiv, Nat.reduceEqDiff,
        Nat.reduceLTLE, Nat.reduceLeDiff, Nat.reduceLT, Nat.reduceGT, Nat.reduceOr,
        Nat.reduceXor, reduceCtorEq, Bool.not_eq_true', Bool.not_eq_true,
        decide_eq_true_eq, decide_eq_false_iff_not, Bool.and_eq_true, Bool.or_eq_true,
        bne_iff_ne, beq_iff_eq, ne_eq, Bool.not_eq_false', Bool.not_eq_false, decide_not,
        not_not, Bool.decide_eq_true, Bool.false_eq_true, Bool.true_eq_false,
        not_false_eq_true, not_true_eq_false, and_true, true_and, and_false, false_and,
        or_true, true_or, or_false, false_or, not_true, not_false_iff, iff_self, true_iff,
        iff_true, false_iff, iff_false, ite_self, decide_eq_decide, decide_False,
        decide_True, Bool.not_true, Bool.not_false]
  · set_option maxRecDepth 8000 in
    simp only [
        ↓reduceIte, hy, f64Div_one_zero, ↓fast_pow.pow_L_2TAG_PACKET_41_0_2_1_sem,
        ↓fast_pow.pow_L_2TAG_PACKET_40_0_2_2_sem,
        ↓fast_pow.pow_L_2TAG_PACKET_40_0_2_1_sem, ↓fast_pow.pow_L_2TAG_PACKET_9_0_2_3_sem,
        ↓fast_pow.pow_L_2TAG_PACKET_9_0_2_2_sem, ↓fast_pow.pow_L_2TAG_PACKET_9_0_2_1_sem,
        ↓fast_pow.pow_L_2TAG_PACKET_7_0_2_1_sem, ↓fast_pow.pow_L_2TAG_PACKET_0_0_2_2_sem,
        ↓fast_pow.pow_L_2TAG_PACKET_0_0_2_1_sem, ↓fast_pow.pow_B1_2_1_sem,
        ↓fast_pow.pow_start_1_sem, ↓fast_pow.pow_entry_1_sem, ↓Machine.get_setx,
        ↓Machine.get_setg, ↓Machine.get_setstk, ↓Machine.get_enter, ↓Machine.get_setFlags,
        ↓Machine.trace_set, ↓Machine.get_ite, ↓Machine.trace_ite, ↓Machine.obs_eq_get,
        ↓Machine.flags_get, ↓Machine.flags_trace, ↓sem_get_1, ↓sem_get_2, ↓sem_get_3,
        ↓sem_get_4, ↓sem_trace_1, ↓sem_trace_2, ↓sem_trace_3, ↓sem_trace_4, ↓load_const,
        cc_iff, ea, and_imm, and_imm_left, ilog2_lit, or_eq_zero, or_mod32, or_lt_2p31,
        Nat.mod_mod, Nat.zero_or, Nat.or_zero, Nat.sub_zero, Nat.add_mod_right, lane_eq,
        Machine.io_eq_get, Nat.xor_self, Loc.x.injEq, Loc.g.injEq, Loc.m.injEq,
        Bool.toNat_eq_zero, Bool.toNat_eq_one, Nat.reducePow, Nat.reduceMul,
        Nat.reduceMod, Nat.reduceAdd, Nat.reduceSub, Nat.reduceDiv, Nat.reduceEqDiff,
        Nat.reduceLTLE, Nat.reduceLeDiff, Nat.reduceLT, Nat.reduceGT, Nat.reduceOr,
        Nat.reduceXor, reduceCtorEq, Bool.not_eq_true', Bool.not_eq_true,
        decide_eq_true_eq, decide_eq_false_iff_not, Bool.and_eq_true, Bool.or_eq_true,
        bne_iff_ne, beq_iff_eq, ne_eq, Bool.not_eq_false', Bool.not_eq_false, decide_not,
        not_not, Bool.decide_eq_true, Bool.false_eq_true, Bool.true_eq_false,
        not_false_eq_true, not_true_eq_false, and_true, true_and, and_false, false_and,
        or_true, true_or, or_false, false_or, not_true, not_false_iff, iff_self, true_iff,
        iff_true, false_iff, iff_false, ite_self, decide_eq_decide, decide_False,
        decide_True, Bool.not_true, Bool.not_false]
    all_goals omega
  · set_option maxRecDepth 8000 in
    simp only [
        ↓reduceIte, hy, f64Div_one_zero, ↓fast_pow.pow_L_2TAG_PACKET_40_0_2_2_sem,
        ↓fast_pow.pow_L_2TAG_PACKET_40_0_2_1_sem, ↓fast_pow.pow_L_2TAG_PACKET_9_0_2_3_sem,
        ↓fast_pow.pow_L_2TAG_PACKET_9_0_2_2_sem, ↓fast_pow.pow_L_2TAG_PACKET_9_0_2_1_sem,
        ↓fast_pow.pow_L_2TAG_PACKET_7_0_2_1_sem, ↓fast_pow.pow_L_2TAG_PACKET_0_0_2_2_sem,
        ↓fast_pow.pow_L_2TAG_PACKET_0_0_2_1_sem, ↓fast_pow.pow_B1_2_1_sem,
        ↓fast_pow.pow_start_1_sem, ↓fast_pow.pow_entry_1_sem, ↓Machine.get_setx,
        ↓Machine.get_setg, ↓Machine.get_setstk, ↓Machine.get_enter, ↓Machine.get_setFlags,
        ↓Machine.trace_set, ↓Machine.get_ite, ↓Machine.trace_ite, ↓Machine.obs_eq_get,
        ↓Machine.flags_get, ↓Machine.flags_trace, ↓sem_get_1, ↓sem_get_2, ↓sem_get_3,
        ↓sem_get_4, ↓sem_trace_1, ↓sem_trace_2, ↓sem_trace_3, ↓sem_trace_4, ↓load_const,
        cc_iff, ea, and_imm, and_imm_left, ilog2_lit, or_eq_zero, or_mod32, or_lt_2p31,
        Nat.mod_mod, Nat.zero_or, Nat.or_zero, Nat.sub_zero, Nat.add_mod_right, lane_eq,
        Machine.io_eq_get, Nat.xor_self, Loc.x.injEq, Loc.g.injEq, Loc.m.injEq,
        Bool.toNat_eq_zero, Bool.toNat_eq_one, Nat.reducePow, Nat.reduceMul,
        Nat.reduceMod, Nat.reduceAdd, Nat.reduceSub, Nat.reduceDiv, Nat.reduceEqDiff,
        Nat.reduceLTLE, Nat.reduceLeDiff, Nat.reduceLT, Nat.reduceGT, Nat.reduceOr,
        Nat.reduceXor, reduceCtorEq, Bool.not_eq_true', Bool.not_eq_true,
        decide_eq_true_eq, decide_eq_false_iff_not, Bool.and_eq_true, Bool.or_eq_true,
        bne_iff_ne, beq_iff_eq, ne_eq, Bool.not_eq_false', Bool.not_eq_false, decide_not,
        not_not, Bool.decide_eq_true, Bool.false_eq_true, Bool.true_eq_false,
        not_false_eq_true, not_true_eq_false, and_true, true_and, and_false, false_and,
        or_true, true_or, or_false, false_or, not_true, not_false_iff, iff_self, true_iff,
        iff_true, false_iff, iff_false, ite_self, decide_eq_decide, decide_False,
        decide_True, Bool.not_true, Bool.not_false]
    all_goals omega
  · set_option maxRecDepth 8000 in
    simp only [
        ↓reduceIte, hy, f64Div_one_zero, ↓fast_pow.pow_L_2TAG_PACKET_40_0_2_1_sem,
        ↓fast_pow.pow_L_2TAG_PACKET_9_0_2_3_sem, ↓fast_pow.pow_L_2TAG_PACKET_9_0_2_2_sem,
        ↓fast_pow.pow_L_2TAG_PACKET_9_0_2_1_sem, ↓fast_pow.pow_L_2TAG_PACKET_7_0_2_1_sem,
        ↓fast_pow.pow_L_2TAG_PACKET_0_0_2_2_sem, ↓fast_pow.pow_L_2TAG_PACKET_0_0_2_1_sem,
        ↓fast_pow.pow_B1_2_1_sem, ↓fast_pow.pow_start_1_sem, ↓fast_pow.pow_entry_1_sem,
        ↓Machine.get_setx, ↓Machine.get_setg, ↓Machine.get_setstk, ↓Machine.get_enter,
        ↓Machine.get_setFlags, ↓Machine.trace_set, ↓Machine.get_ite, ↓Machine.trace_ite,
        ↓Machine.obs_eq_get, ↓Machine.flags_get, ↓Machine.flags_trace, ↓sem_get_1,
        ↓sem_get_2, ↓sem_get_3, ↓sem_get_4, ↓sem_trace_1, ↓sem_trace_2, ↓sem_trace_3,
        ↓sem_trace_4, ↓load_const, cc_iff, ea, and_imm, and_imm_left, ilog2_lit,
        or_eq_zero, or_mod32, or_lt_2p31, Nat.mod_mod, Nat.zero_or, Nat.or_zero,
        Nat.sub_zero, Nat.add_mod_right, lane_eq, Machine.io_eq_get, Nat.xor_self,
        Loc.x.injEq, Loc.g.injEq, Loc.m.injEq, Bool.toNat_eq_zero, Bool.toNat_eq_one,
        Nat.reducePow, Nat.reduceMul, Nat.reduceMod, Nat.reduceAdd, Nat.reduceSub,
        Nat.reduceDiv, Nat.reduceEqDiff, Nat.reduceLTLE, Nat.reduceLeDiff, Nat.reduceLT,
        Nat.reduceGT, Nat.reduceOr, Nat.reduceXor, reduceCtorEq, Bool.not_eq_true',
        Bool.not_eq_true, decide_eq_true_eq, decide_eq_false_iff_not, Bool.and_eq_true,
        Bool.or_eq_true, bne_iff_ne, beq_iff_eq, ne_eq, Bool.not_eq_false',
        Bool.not_eq_false, decide_not, not_not, Bool.decide_eq_true, Bool.false_eq_true,
        Bool.true_eq_false, not_false_eq_true, not_true_eq_false, and_true, true_and,
        and_false, false_and, or_true, true_or, or_false, false_or, not_true,
        not_false_iff, iff_self, true_iff, iff_true, false_iff, iff_false, ite_self,
        decide_eq_decide, decide_False, decide_True, Bool.not_true, Bool.not_false]
    all_goals omega
  · set_option maxRecDepth 8000 in
    simp only [
        ↓reduceIte, hy, f64Div_one_zero, ↓fast_pow.pow_L_2TAG_PACKET_9_0_2_2_sem,
        ↓fast_pow.pow_L_2TAG_PACKET_9_0_2_1_sem, ↓fast_pow.pow_L_2TAG_PACKET_7_0_2_1_sem,
        ↓fast_pow.pow_L_2TAG_PACKET_0_0_2_2_sem, ↓fast_pow.pow_L_2TAG_PACKET_0_0_2_1_sem,
        ↓fast_pow.pow_B1_2_1_sem, ↓fast_pow.pow_start_1_sem, ↓fast_pow.pow_entry_1_sem,
        ↓Machine.get_setx, ↓Machine.get_setg, ↓Machine.get_setstk, ↓Machine.get_enter,
        ↓Machine.get_setFlags, ↓Machine.trace_set, ↓Machine.get_ite, ↓Machine.trace_ite,
        ↓Machine.obs_eq_get, ↓Machine.flags_get, ↓Machine.flags_trace, ↓sem_get_1,
        ↓sem_get_2, ↓sem_get_3, ↓sem_get_4, ↓sem_trace_1, ↓sem_trace_2, ↓sem_trace_3,
        ↓sem_trace_4, ↓load_const, cc_iff, ea, and_imm, and_imm_left, ilog2_lit,
        or_eq_zero, or_mod32, or_lt_2p31, Nat.mod_mod, Nat.zero_or, Nat.or_zero,
        Nat.sub_zero, Nat.add_mod_right, lane_eq, Machine.io_eq_get, Nat.xor_self,
        Loc.x.injEq, Loc.g.injEq, Loc.m.injEq, Bool.toNat_eq_zero, Bool.toNat_eq_one,
        Nat.reducePow, Nat.reduceMul, Nat.reduceMod, Nat.reduceAdd, Nat.reduceSub,
        Nat.reduceDiv, Nat.reduceEqDiff, Nat.reduceLTLE, Nat.reduceLeDiff, Nat.reduceLT,
        Nat.reduceGT, Nat.reduceOr, Nat.reduceXor, reduceCtorEq, Bool.not_eq_true',
        Bool.not_eq_true, decide_eq_true_eq, decide_eq_false_iff_not, Bool.and_eq_true,
        Bool.or_eq_true, bne_iff_ne, beq_iff_eq, ne_eq, Bool.not_eq_false',
        Bool.not_eq_false, decide_not, not_not, Bool.decide_eq_true, Bool.false_eq_true,
        Bool.true_eq_false, not_false_eq_true, not_true_eq_false, and_true, true_and,
        and_false, false_and, or_true, true_or, or_false, false_or, not_true,
        not_false_iff, iff_self, true_iff, iff_true, false_iff, iff_false, ite_self,
        decide_eq_decide, decide_False, decide_True, Bool.not_true, Bool.not_false]
    all_goals omega
  · set_option maxRecDepth 8000 in
    simp only [
        ↓reduceIte, hy, f64Div_one_zero, ↓fast_pow.pow_L_2TAG_PACKET_9_0_2_1_sem,
        ↓fast_pow.pow_L_2TAG_PACKET_7_0_2_1_sem, ↓fast_pow.pow_L_2TAG_PACKET_0_0_2_2_sem,
        ↓fast_pow.pow_L_2TAG_PACKET_0_0_2_1_sem, ↓fast_pow.pow_B1_2_1_sem,
        ↓fast_pow.pow_start_1_sem, ↓fast_pow.pow_entry_1_sem, ↓Machine.get_setx,
        ↓Machine.get_setg, ↓Machine.get_setstk, ↓Machine.get_enter, ↓Machine.get_setFlags,
        ↓Machine.trace_set, ↓Machine.get_ite, ↓Machine.trace_ite, ↓Machine.obs_eq_get,
        ↓Machine.flags_get, ↓Machine.flags_trace, ↓sem_get_1, ↓sem_get_2, ↓sem_get_3,
        ↓sem_get_4, ↓sem_trace_1, ↓sem_trace_2, ↓sem_trace_3, ↓sem_trace_4, ↓load_const,
        cc_iff, ea, and_imm, and_imm_left, ilog2_lit, or_eq_zero, or_mod32, or_lt_2p31,
        Nat.mod_mod, Nat.zero_or, Nat.or_zero, Nat.sub_zero, Nat.add_mod_right, lane_eq,
        Machine.io_eq_get, Nat.xor_self, Loc.x.injEq, Loc.g.injEq, Loc.m.injEq,
        Bool.toNat_eq_zero, Bool.toNat_eq_one, Nat.reducePow, Nat.reduceMul,
        Nat.reduceMod, Nat.reduceAdd, Nat.reduceSub, Nat.reduceDiv, Nat.reduceEqDiff,
        Nat.reduceLTLE, Nat.reduceLeDiff, Nat.reduceLT, Nat.reduceGT, Nat.reduceOr,
        Nat.reduceXor, reduceCtorEq, Bool.not_eq_true', Bool.not_eq_true,
        decide_eq_true_eq, decide_eq_false_iff_not, Bool.and_eq_true, Bool.or_eq_true,
        bne_iff_ne, beq_iff_eq, ne_eq, Bool.not_eq_false', Bool.not_eq_false, decide_not,
        not_not, Bool.decide_eq_true, Bool.false_eq_true, Bool.true_eq_false,
        not_false_eq_true, not_true_eq_false, and_true, true_and, and_false, false_and,
        or_true, true_or, or_false, false_or, not_true, not_false_iff, iff_self, true_iff,
        iff_true, false_iff, iff_false, ite_self, decide_eq_decide, decide_False,
        decide_True, Bool.not_true, Bool.not_false]
    all_goals omega
  · set_option maxRecDepth 8000 in
    simp only [
        ↓reduceIte, hy, f64Div_one_zero, ↓fast_pow.pow_L_2TAG_PACKET_7_0_2_1_sem,
        ↓fast_pow.pow_L_2TAG_PACKET_0_0_2_2_sem, ↓fast_pow.pow_L_2TAG_PACKET_0_0_2_1_sem,
        ↓fast_pow.pow_B1_2_1_sem, ↓fast_pow.pow_start_1_sem, ↓fast_pow.pow_entry_1_sem,
        ↓Machine.get_setx, ↓Machine.get_setg, ↓Machine.get_setstk, ↓Machine.get_enter,
        ↓Machine.get_setFlags, ↓Machine.trace_set, ↓Machine.get_ite, ↓Machine.trace_ite,
        ↓Machine.obs_eq_get, ↓Machine.flags_get, ↓Machine.flags_trace, ↓sem_get_1,
        ↓sem_get_2, ↓sem_get_3, ↓sem_get_4, ↓sem_trace_1, ↓sem_trace_2, ↓sem_trace_3,
        ↓sem_trace_4, ↓load_const, cc_iff, ea, and_imm, and_imm_left, ilog2_lit,
        or_eq_zero, or_mod32, or_lt_2p31, Nat.mod_mod, Nat.zero_or, Nat.or_zero,
        Nat.sub_zero, Nat.add_mod_right, lane_eq, Machine.io_eq_get, Nat.xor_self,
        Loc.x.injEq, Loc.g.injEq, Loc.m.injEq, Bool.toNat_eq_zero, Bool.toNat_eq_one,
        Nat.reducePow, Nat.reduceMul, Nat.reduceMod, Nat.reduceAdd, Nat.reduceSub,
        Nat.reduceDiv, Nat.reduceEqDiff, Nat.reduceLTLE, Nat.reduceLeDiff, Nat.reduceLT,
        Nat.reduceGT, Nat.reduceOr, Nat.reduceXor, reduceCtorEq, Bool.not_eq_true',
        Bool.not_eq_true, decide_eq_true_eq, decide_eq_false_iff_not, Bool.and_eq_true,
        Bool.or_eq_true, bne_iff_ne, beq_iff_eq, ne_eq, Bool.not_eq_false',
        Bool.not_eq_false, decide_not, not_not, Bool.decide_eq_true, Bool.false_eq_true,
        Bool.true_eq_false, not_false_eq_true, not_true_eq_false, and_true, true_and,
        and_false, false_and, or_true, true_or, or_false, false_or, not_true,
        not_false_iff, iff_self, true_iff, iff_true, false_iff, iff_false, ite_self,
        decide_eq_decide, decide_False, decide_True, Bool.not_true, Bool.not_false]
    all_goals omega
  · set_option maxRecDepth 8000 in
    simp only [
        ↓reduceIte, hy, f64Div_one_zero, ↓fast_pow.pow_L_2TAG_PACKET_0_0_2_2_sem,
        ↓fast_pow.pow_L_2TAG_PACKET_0_0_2_1_sem, ↓fast_pow.pow_B1_2_1_sem,
        ↓fast_pow.pow_start_1_sem, ↓fast_pow.pow_entry_1_sem, ↓Machine.get_setx,
        ↓Machine.get_setg, ↓Machine.get_setstk, ↓Machine.get_enter, ↓Machine.get_setFlags,
        ↓Machine.trace_set, ↓Machine.get_ite, ↓Machine.trace_ite, ↓Machine.obs_eq_get,
        ↓Machine.flags_get, ↓Machine.flags_trace, ↓sem_get_1, ↓sem_get_2, ↓sem_get_3,
        ↓sem_get_4, ↓sem_trace_1, ↓sem_trace_2, ↓sem_trace_3, ↓sem_trace_4, ↓load_const,
        cc_iff, ea, and_imm, and_imm_left, ilog2_lit, or_eq_zero, or_mod32, or_lt_2p31,
        Nat.mod_mod, Nat.zero_or, Nat.or_zero, Nat.sub_zero, Nat.add_mod_right, lane_eq,
        Machine.io_eq_get, Nat.xor_self, Loc.x.injEq, Loc.g.injEq, Loc.m.injEq,
        Bool.toNat_eq_zero, Bool.toNat_eq_one, Nat.reducePow, Nat.reduceMul,
        Nat.reduceMod, Nat.reduceAdd, Nat.reduceSub, Nat.reduceDiv, Nat.reduceEqDiff,
        Nat.reduceLTLE, Nat.reduceLeDiff, Nat.reduceLT, Nat.reduceGT, Nat.reduceOr,
        Nat.reduceXor, reduceCtorEq, Bool.not_eq_true', Bool.not_eq_true,
        decide_eq_true_eq, decide_eq_false_iff_not, Bool.and_eq_true, Bool.or_eq_true,
        bne_iff_ne, beq_iff_eq, ne_eq, Bool.not_eq_false', Bool.not_eq_false, decide_not,
        not_not, Bool.decide_eq_true, Bool.false_eq_true, Bool.true_eq_false,
        not_false_eq_true, not_true_eq_false, and_true, true_and, and_false, false_and,
        or_true, true_or, or_false, false_or, not_true, not_false_iff, iff_self, true_iff,
        iff_true, false_iff, iff_false, ite_self, decide_eq_decide, decide_False,
        decide_True, Bool.not_true, Bool.not_false]
    all_goals omega
  · set_option maxRecDepth 8000 in
    simp only [
        ↓reduceIte, hy, f64Div_one_zero, ↓fast_pow.pow_L_2TAG_PACKET_0_0_2_1_sem,
        ↓fast_pow.pow_B1_2_1_sem, ↓fast_pow.pow_start_1_sem, ↓fast_pow.pow_entry_1_sem,
        ↓Machine.get_setx, ↓Machine.get_setg, ↓Machine.get_setstk, ↓Machine.get_enter,
        ↓Machine.get_setFlags, ↓Machine.trace_set, ↓Machine.get_ite, ↓Machine.trace_ite,
        ↓Machine.obs_eq_get, ↓Machine.flags_get, ↓Machine.flags_trace, ↓sem_get_1,
        ↓sem_get_2, ↓sem_get_3, ↓sem_get_4, ↓sem_trace_1, ↓sem_trace_2, ↓sem_trace_3,
        ↓sem_trace_4, ↓load_const, cc_iff, ea, and_imm, and_imm_left, ilog2_lit,
        or_eq_zero, or_mod32, or_lt_2p31, Nat.mod_mod, Nat.zero_or, Nat.or_zero,
        Nat.sub_zero, Nat.add_mod_right, lane_eq, Machine.io_eq_get, Nat.xor_self,
        Loc.x.injEq, Loc.g.injEq, Loc.m.injEq, Bool.toNat_eq_zero, Bool.toNat_eq_one,
        Nat.reducePow, Nat.reduceMul, Nat.reduceMod, Nat.reduceAdd, Nat.reduceSub,
        Nat.reduceDiv, Nat.reduceEqDiff, Nat.reduceLTLE, Nat.reduceLeDiff, Nat.reduceLT,
        Nat.reduceGT, Nat.reduceOr, Nat.reduceXor, reduceCtorEq, Bool.not_eq_true',
        Bool.not_eq_true, decide_eq_true_eq, decide_eq_false_iff_not, Bool.and_eq_true,
        Bool.or_eq_true, bne_iff_ne, beq_iff_eq, ne_eq, Bool.not_eq_false',
        Bool.not_eq_false, decide_not, not_not, Bool.decide_eq_true, Bool.false_eq_true,
        Bool.true_eq_false, not_false_eq_true, not_true_eq_false, and_true, true_and,
        and_false, false_and, or_true, true_or, or_false, false_or, not_true,
        not_false_iff, iff_self, true_iff, iff_true, false_iff, iff_false, ite_self,
        decide_eq_decide, decide_False, decide_True, Bool.not_true, Bool.not_false]
    all_goals omega
  · set_option maxRecDepth 8000 in
    simp only [
        ↓reduceIte, hy, f64Div_one_zero, ↓fast_pow.pow_B1_2_1_sem,
        ↓fast_pow.pow_start_1_sem, ↓fast_pow.pow_entry_1_sem, ↓Machine.get_setx,
        ↓Machine.get_setg, ↓Machine.get_setstk, ↓Machine.get_enter, ↓Machine.get_setFlags,
        ↓Machine.trace_set, ↓Machine.get_ite, ↓Machine.trace_ite, ↓Machine.obs_eq_get,
        ↓Machine.flags_get, ↓Machine.flags_trace, ↓sem_get_1, ↓sem_get_2, ↓sem_get_3,
        ↓sem_get_4, ↓sem_trace_1, ↓sem_trace_2, ↓sem_trace_3, ↓sem_trace_4, ↓load_const,
        cc_iff, ea, and_imm, and_imm_left, ilog2_lit, or_eq_zero, or_mod32, or_lt_2p31,
        Nat.mod_mod, Nat.zero_or, Nat.or_zero, Nat.sub_zero, Nat.add_mod_right, lane_eq,
        Machine.io_eq_get, Nat.xor_self, Loc.x.injEq, Loc.g.injEq, Loc.m.injEq,
        Bool.toNat_eq_zero, Bool.toNat_eq_one, Nat.reducePow, Nat.reduceMul,
        Nat.reduceMod, Nat.reduceAdd, Nat.reduceSub, Nat.reduceDiv, Nat.reduceEqDiff,
        Nat.reduceLTLE, Nat.reduceLeDiff, Nat.reduceLT, Nat.reduceGT, Nat.reduceOr,
        Nat.reduceXor, reduceCtorEq, Bool.not_eq_true', Bool.not_eq_true,
        decide_eq_true_eq, decide_eq_false_iff_not, Bool.and_eq_true, Bool.or_eq_true,
        bne_iff_ne, beq_iff_eq, ne_eq, Bool.not_eq_false', Bool.not_eq_false, decide_not,
        not_not, Bool.decide_eq_true, Bool.false_eq_true, Bool.true_eq_false,
        not_false_eq_true, not_true_eq_false, and_true, true_and, and_false, false_and,
        or_true, true_or, or_false, false_or, not_true, not_false_iff, iff_self, true_iff,
        iff_true, false_iff, iff_false, ite_self, decide_eq_decide, decide_False,
        decide_True, Bool.not_true, Bool.not_false]
    all_goals omega

theorem fast_pow_ninf_ninf_run (cpu : Cpu) (s : Machine) (hx : s.arg0 = 0xFFF0000000000000)
    (hy : s.arg1 = 0xFFF0000000000000) : (fast_pow cpu s).result = 0 := by
  simp only [Machine.io_eq_get, Nat.reducePow] at hx hy
  rw [
      fast_pow, fast_pow.pow_entry_eq, fast_pow.pow_start_eq, fast_pow.pow_B1_2_eq, if_pos,
      fast_pow.pow_L_2TAG_PACKET_0_0_2_eq, if_pos, fast_pow.pow_L_2TAG_PACKET_6_0_2_eq,
      if_pos, fast_pow.pow_L_2TAG_PACKET_15_0_2_eq, if_neg, if_neg, if_neg,
      fast_pow.pow_L_2TAG_PACKET_20_0_2_eq, if_pos, fast_pow.pow_L_2TAG_PACKET_21_0_2_eq,
      if_pos, fast_pow.pow_L_2TAG_PACKET_24_0_2_eq, if_pos,
      fast_pow.pow_L_2TAG_PACKET_22_0_2_eq, fast_pow.pow_B1_5_eq]
  · set_option maxRecDepth 8000 in
    simp only [
        ↓reduceIte, hx, hy, ↓fast_pow.pow_B1_5_1_sem,
        ↓fast_pow.pow_L_2TAG_PACKET_22_0_2_1_sem,
        ↓fast_pow.pow_L_2TAG_PACKET_24_0_2_1_sem,
        ↓fast_pow.pow_L_2TAG_PACKET_21_0_2_1_sem,
        ↓fast_pow.pow_L_2TAG_PACKET_20_0_2_1_sem,
        ↓fast_pow.pow_L_2TAG_PACKET_15_0_2_4_sem,
        ↓fast_pow.pow_L_2TAG_PACKET_15_0_2_3_sem,
        ↓fast_pow.pow_L_2TAG_PACKET_15_0_2_2_sem,
        ↓fast_pow.pow_L_2TAG_PACKET_15_0_2_1_sem, ↓fast_pow.pow_L_2TAG_PACKET_6_0_2_1_sem,
        ↓fast_pow.pow_L_2TAG_PACKET_0_0_2_1_sem, ↓fast_pow.pow_B1_2_1_sem,
        ↓fast_pow.pow_start_1_sem, ↓fast_pow.pow_entry_1_sem, ↓Machine.get_setx,
        ↓Machine.get_setg, ↓Machine.get_setstk, ↓Machine.get_enter, ↓Machine.get_setFlags,
        ↓Machine.trace_set, ↓Machine.get_ite, ↓Machine.trace_ite, ↓Machine.obs_eq_get,
        ↓Machine.flags_get, ↓Machine.flags_trace, ↓sem_get_1, ↓sem_get_2, ↓sem_get_3,
        ↓sem_get_4, ↓sem_trace_1, ↓sem_trace_2, ↓sem_trace_3, ↓sem_trace_4, ↓load_const,
        cc_iff, ea, and_imm, and_imm_left, ilog2_lit, or_eq_zero, or_mod32, or_lt_2p31,
        Nat.mod_mod, Nat.zero_or, Nat.or_zero, Nat.sub_zero, Nat.add_mod_right, lane_eq,
        Machine.io_eq_get, Nat.xor_self, Loc.x.injEq, Loc.g.injEq, Loc.m.injEq,
        Bool.toNat_eq_zero, Bool.toNat_eq_one, Nat.reducePow, Nat.reduceMul,
        Nat.reduceMod, Nat.reduceAdd, Nat.reduceSub, Nat.reduceDiv, Nat.reduceEqDiff,
        Nat.reduceLTLE, Nat.reduceLeDiff, Nat.reduceLT, Nat.reduceGT, Nat.reduceOr,
        Nat.reduceXor, reduceCtorEq, Bool.not_eq_true', Bool.not_eq_true,
        decide_eq_true_eq, decide_eq_false_iff_not, Bool.and_eq_true, Bool.or_eq_true,
        bne_iff_ne, beq_iff_eq, ne_eq, Bool.not_eq_false', Bool.not_eq_false, decide_not,
        not_not, Bool.decide_eq_true, Bool.false_eq_true, Bool.true_eq_false,
        not_false_eq_true, not_true_eq_false, and_true, true_and, and_false, false_and,
        or_true, true_or, or_false, false_or, not_true, not_false_iff, iff_self, true_iff,
        iff_true, false_iff, iff_false, ite_self, decide_eq_decide, decide_False,
        decide_True, Bool.not_true, Bool.not_false]
  · set_option maxRecDepth 8000 in
    simp only [
        ↓reduceIte, hx, hy, ↓fast_pow.pow_L_2TAG_PACKET_24_0_2_1_sem,
        ↓fast_pow.pow_L_2TAG_PACKET_21_0_2_1_sem,
        ↓fast_pow.pow_L_2TAG_PACKET_20_0_2_1_sem,
        ↓fast_pow.pow_L_2TAG_PACKET_15_0_2_4_sem,
        ↓fast_pow.pow_L_2TAG_PACKET_15_0_2_3_sem,
        ↓fast_pow.pow_L_2TAG_PACKET_15_0_2_2_sem,
        ↓fast_pow.pow_L_2TAG_PACKET_15_0_2_1_sem, ↓fast_pow.pow_L_2TAG_PACKET_6_0_2_1_sem,
        ↓fast_pow.pow_L_2TAG_PACKET_0_0_2_1_sem, ↓fast_pow.pow_B1_2_1_sem,
        ↓fast_pow.pow_start_1_sem, ↓fast_pow.pow_entry_1_sem, ↓Machine.get_setx,
        ↓Machine.get_setg, ↓Machine.get_setstk, ↓Machine.get_enter, ↓Machine.get_setFlags,
        ↓Machine.trace_set, ↓Machine.get_ite, ↓Machine.trace_ite, ↓Machine.obs_eq_get,
        ↓Machine.flags_get, ↓Machine.flags_trace, ↓sem_get_1, ↓sem_get_2, ↓sem_get_3,
        ↓sem_get_4, ↓sem_trace_1, ↓sem_trace_2, ↓sem_trace_3, ↓sem_trace_4, ↓load_const,
        cc_iff, ea, and_imm, and_imm_left, ilog2_lit, or_eq_zero, or_mod32, or_lt_2p31,
        Nat.mod_mod, Nat.zero_or, Nat.or_zero, Nat.sub_zero, Nat.add_mod_right, lane_eq,
        Machine.io_eq_get, Nat.xor_self, Loc.x.injEq, Loc.g.injEq, Loc.m.injEq,
        Bool.toNat_eq_zero, Bool.toNat_eq_one, Nat.reducePow, Nat.reduceMul,
        Nat.reduceMod, Nat.reduceAdd, Nat.reduceSub, Nat.reduceDiv, Nat.reduceEqDiff,
        Nat.reduceLTLE, Nat.reduceLeDiff, Nat.reduceLT, Nat.reduceGT, Nat.reduceOr,
        Nat.reduceXor, reduceCtorEq, Bool.not_eq_true', Bool.not_eq_true,
        decide_eq_true_eq, decide_eq_false_iff_not, Bool.and_eq_true, Bool.or_eq_true,
        bne_iff_ne, beq_iff_eq, ne_eq, Bool.not_eq_false', Bool.not_eq_false, decide_not,
        not_not, Bool.decide_eq_true, Bool.false_eq_true, Bool.true_eq_false,
        not_false_eq_true, not_true_eq_false, and_true, true_and, and_false, false_and,
        or_true, true_or, or_false, false_or, not_true, not_false_iff, iff_self, true_iff,
        iff_true, false_iff, iff_false, ite_self, decide_eq_decide, decide_False,
        decide_True, Bool.not_true, Bool.not_false]
    all_goals omega
  · set_option maxRecDepth 8000 in
    simp only [
        ↓reduceIte, hx, hy, ↓fast_pow.pow_L_2TAG_PACKET_21_0_2_1_sem,
        ↓fast_pow.pow_L_2TAG_PACKET_20_0_2_1_sem,
        ↓fast_pow.pow_L_2TAG_PACKET_15_0_2_4_sem,
        ↓fast_pow.pow_L_2TAG_PACKET_15_0_2_3_sem,
        ↓fast_pow.pow_L_2TAG_PACKET_15_0_2_2_sem,
        ↓fast_pow.pow_L_2TAG_PACKET_15_0_2_1_sem, ↓fast_pow.pow_L_2TAG_PACKET_6_0_2_1_sem,
        ↓fast_pow.pow_L_2TAG_PACKET_0_0_2_1_sem, ↓fast_pow.pow_B1_2_1_sem,
        ↓fast_pow.pow_start_1_sem, ↓fast_pow.pow_entry_1_sem, ↓Machine.get_setx,
        ↓Machine.get_setg, ↓Machine.get_setstk, ↓Machine.get_enter, ↓Machine.get_setFlags,
        ↓Machine.trace_set, ↓Machine.get_ite, ↓Machine.trace_ite, ↓Machine.obs_eq_get,
        ↓Machine.flags_get, ↓Machine.flags_trace, ↓sem_get_1, ↓sem_get_2, ↓sem_get_3,
        ↓sem_get_4, ↓sem_trace_1, ↓sem_trace_2, ↓sem_trace_3, ↓sem_trace_4, ↓load_const,
        cc_iff, ea, and_imm, and_imm_left, ilog2_lit, or_eq_zero, or_mod32, or_lt_2p31,
        Nat.mod_mod, Nat.zero_or, Nat.or_zero, Nat.sub_zero, Nat.add_mod_right, lane_eq,
        Machine.io_eq_get, Nat.xor_self, Loc.x.injEq, Loc.g.injEq, Loc.m.injEq,
        Bool.toNat_eq_zero, Bool.toNat_eq_one, Nat.reducePow, Nat.reduceMul,
        Nat.reduceMod, Nat.reduceAdd, Nat.reduceSub, Nat.reduceDiv, Nat.reduceEqDiff,
        Nat.reduceLTLE, Nat.reduceLeDiff, Nat.reduceLT, Nat.reduceGT, Nat.reduceOr,
        Nat.reduceXor, reduceCtorEq, Bool.not_eq_true', Bool.not_eq_true,
        decide_eq_true_eq, decide_eq_false_iff_not, Bool.and_eq_true, Bool.or_eq_true,
        bne_iff_ne, beq_iff_eq, ne_eq, Bool.not_eq_false', Bool.not_eq_false, decide_not,
        not_not, Bool.decide_eq_true, Bool.false_eq_true, Bool.true_eq_false,
        not_false_eq_true, not_true_eq_false, and_true, true_and, and_false, false_and,
        or_true, true_or, or_false, false_or, not_true, not_false_iff, iff_self, true_iff,
        iff_true, false_iff, iff_false, ite_self, decide_eq_decide, decide_False,
        decide_True, Bool.not_true, Bool.not_false]
    all_goals omega
  · set_option maxRecDepth 8000 in
    simp only [
        ↓reduceIte, hx, hy, ↓fast_pow.pow_L_2TAG_PACKET_20_0_2_1_sem,
        ↓fast_pow.pow_L_2TAG_PACKET_15_0_2_4_sem,
        ↓fast_pow.pow_L_2TAG_PACKET_15_0_2_3_sem,
        ↓fast_pow.pow_L_2TAG_PACKET_15_0_2_2_sem,
        ↓fast_pow.pow_L_2TAG_PACKET_15_0_2_1_sem, ↓fast_pow.pow_L_2TAG_PACKET_6_0_2_1_sem,
        ↓fast_pow.pow_L_2TAG_PACKET_0_0_2_1_sem, ↓fast_pow.pow_B1_2_1_sem,
        ↓fast_pow.pow_start_1_sem, ↓fast_pow.pow_entry_1_sem, ↓Machine.get_setx,
        ↓Machine.get_setg, ↓Machine.get_setstk, ↓Machine.get_enter, ↓Machine.get_setFlags,
        ↓Machine.trace_set, ↓Machine.get_ite, ↓Machine.trace_ite, ↓Machine.obs_eq_get,
        ↓Machine.flags_get, ↓Machine.flags_trace, ↓sem_get_1, ↓sem_get_2, ↓sem_get_3,
        ↓sem_get_4, ↓sem_trace_1, ↓sem_trace_2, ↓sem_trace_3, ↓sem_trace_4, ↓load_const,
        cc_iff, ea, and_imm, and_imm_left, ilog2_lit, or_eq_zero, or_mod32, or_lt_2p31,
        Nat.mod_mod, Nat.zero_or, Nat.or_zero, Nat.sub_zero, Nat.add_mod_right, lane_eq,
        Machine.io_eq_get, Nat.xor_self, Loc.x.injEq, Loc.g.injEq, Loc.m.injEq,
        Bool.toNat_eq_zero, Bool.toNat_eq_one, Nat.reducePow, Nat.reduceMul,
        Nat.reduceMod, Nat.reduceAdd, Nat.reduceSub, Nat.reduceDiv, Nat.reduceEqDiff,
        Nat.reduceLTLE, Nat.reduceLeDiff, Nat.reduceLT, Nat.reduceGT, Nat.reduceOr,
        Nat.reduceXor, reduceCtorEq, Bool.not_eq_true', Bool.not_eq_true,
        decide_eq_true_eq, decide_eq_false_iff_not, Bool.and_eq_true, Bool.or_eq_true,
        bne_iff_ne, beq_iff_eq, ne_eq, Bool.not_eq_false', Bool.not_eq_false, decide_not,
        not_not, Bool.decide_eq_true, Bool.false_eq_true, Bool.true_eq_false,
        not_false_eq_true, not_true_eq_false, and_true, true_and, and_false, false_and,
        or_true, true_or, or_false, false_or, not_true, not_false_iff, iff_self, true_iff,
        iff_true, false_iff, iff_false, ite_self, decide_eq_decide, decide_False,
        decide_True, Bool.not_true, Bool.not_false]
    all_goals omega
  · set_option maxRecDepth 8000 in
    simp only [
        ↓reduceIte, hx, hy, ↓fast_pow.pow_L_2TAG_PACKET_15_0_2_3_sem,
        ↓fast_pow.pow_L_2TAG_PACKET_15_0_2_2_sem,
        ↓fast_pow.pow_L_2TAG_PACKET_15_0_2_1_sem, ↓fast_pow.pow_L_2TAG_PACKET_6_0_2_1_sem,
        ↓fast_pow.pow_L_2TAG_PACKET_0_0_2_1_sem, ↓fast_pow.pow_B1_2_1_sem,
        ↓fast_pow.pow_start_1_sem, ↓fast_pow.pow_entry_1_sem, ↓Machine.get_setx,
        ↓Machine.get_setg, ↓Machine.get_setstk, ↓Machine.get_enter, ↓Machine.get_setFlags,
        ↓Machine.trace_set, ↓Machine.get_ite, ↓Machine.trace_ite, ↓Machine.obs_eq_get,
        ↓Machine.flags_get, ↓Machine.flags_trace, ↓sem_get_1, ↓sem_get_2, ↓sem_get_3,
        ↓sem_get_4, ↓sem_trace_1, ↓sem_trace_2, ↓sem_trace_3, ↓sem_trace_4, ↓load_const,
        cc_iff, ea, and_imm, and_imm_left, ilog2_lit, or_eq_zero, or_mod32, or_lt_2p31,
        Nat.mod_mod, Nat.zero_or, Nat.or_zero, Nat.sub_zero, Nat.add_mod_right, lane_eq,
        Machine.io_eq_get, Nat.xor_self, Loc.x.injEq, Loc.g.injEq, Loc.m.injEq,
        Bool.toNat_eq_zero, Bool.toNat_eq_one, Nat.reducePow, Nat.reduceMul,
        Nat.reduceMod, Nat.reduceAdd, Nat.reduceSub, Nat.reduceDiv, Nat.reduceEqDiff,
        Nat.reduceLTLE, Nat.reduceLeDiff, Nat.reduceLT, Nat.reduceGT, Nat.reduceOr,
        Nat.reduceXor, reduceCtorEq, Bool.not_eq_true', Bool.not_eq_true,
        decide_eq_true_eq, decide_eq_false_iff_not, Bool.and_eq_true, Bool.or_eq_true,
        bne_iff_ne, beq_iff_eq, ne_eq, Bool.not_eq_false', Bool.not_eq_false, decide_not,
        not_not, Bool.decide_eq_true, Bool.false_eq_true, Bool.true_eq_false,
        not_false_eq_true, not_true_eq_false, and_true, true_and, and_false, false_and,
        or_true, true_or, or_false, false_or, not_true, not_false_iff, iff_self, true_iff,
        iff_true, false_iff, iff_false, ite_self, decide_eq_decide, decide_False,
        decide_True, Bool.not_true, Bool.not_false]
    all_goals omega
  · set_option maxRecDepth 8000 in
    simp only [
        ↓reduceIte, hx, hy, ↓fast_pow.pow_L_2TAG_PACKET_15_0_2_2_sem,
        ↓fast_pow.pow_L_2TAG_PACKET_15_0_2_1_sem, ↓fast_pow.pow_L_2TAG_PACKET_6_0_2_1_sem,
        ↓fast_pow.pow_L_2TAG_PACKET_0_0_2_1_sem, ↓fast_pow.pow_B1_2_1_sem,
        ↓fast_pow.pow_start_1_sem, ↓fast_pow.pow_entry_1_sem, ↓Machine.get_setx,
        ↓Machine.get_setg, ↓Machine.get_setstk, ↓Machine.get_enter, ↓Machine.get_setFlags,
        ↓Machine.trace_set, ↓Machine.get_ite, ↓Machine.trace_ite, ↓Machine.obs_eq_get,
        ↓Machine.flags_get, ↓Machine.flags_trace, ↓sem_get_1, ↓sem_get_2, ↓sem_get_3,
        ↓sem_get_4, ↓sem_trace_1, ↓sem_trace_2, ↓sem_trace_3, ↓sem_trace_4, ↓load_const,
        cc_iff, ea, and_imm, and_imm_left, ilog2_lit, or_eq_zero, or_mod32, or_lt_2p31,
        Nat.mod_mod, Nat.zero_or, Nat.or_zero, Nat.sub_zero, Nat.add_mod_right, lane_eq,
        Machine.io_eq_get, Nat.xor_self, Loc.x.injEq, Loc.g.injEq, Loc.m.injEq,
        Bool.toNat_eq_zero, Bool.toNat_eq_one, Nat.reducePow, Nat.reduceMul,
        Nat.reduceMod, Nat.reduceAdd, Nat.reduceSub, Nat.reduceDiv, Nat.reduceEqDiff,
        Nat.reduceLTLE, Nat.reduceLeDiff, Nat.reduceLT, Nat.reduceGT, Nat.reduceOr,
        Nat.reduceXor, reduceCtorEq, Bool.not_eq_true', Bool.not_eq_true,
        decide_eq_true_eq, decide_eq_false_iff_not, Bool.and_eq_true, Bool.or_eq_true,
        bne_iff_ne, beq_iff_eq, ne_eq, Bool.not_eq_false', Bool.not_eq_false, decide_not,
        not_not, Bool.decide_eq_true, Bool.false_eq_true, Bool.true_eq_false,
        not_false_eq_true, not_true_eq_false, and_true, true_and, and_false, false_and,
        or_true, true_or, or_false, false_or, not_true, not_false_iff, iff_self, true_iff,
        iff_true, false_iff, iff_false, ite_self, decide_eq_decide, decide_False,
        decide_True, Bool.not_true, Bool.not_false]
    all_goals omega
  · set_option maxRecDepth 8000 in
    simp only [
        ↓reduceIte, hx, hy, ↓fast_pow.pow_L_2TAG_PACKET_15_0_2_1_sem,
        ↓fast_pow.pow_L_2TAG_PACKET_6_0_2_1_sem, ↓fast_pow.pow_L_2TAG_PACKET_0_0_2_1_sem,
        ↓fast_pow.pow_B1_2_1_sem, ↓fast_pow.pow_start_1_sem, ↓fast_pow.pow_entry_1_sem,
        ↓Machine.get_setx, ↓Machine.get_setg, ↓Machine.get_setstk, ↓Machine.get_enter,
        ↓Machine.get_setFlags, ↓Machine.trace_set, ↓Machine.get_ite, ↓Machine.trace_ite,
        ↓Machine.obs_eq_get, ↓Machine.flags_get, ↓Machine.flags_trace, ↓sem_get_1,
        ↓sem_get_2, ↓sem_get_3, ↓sem_get_4, ↓sem_trace_1, ↓sem_trace_2, ↓sem_trace_3,
        ↓sem_trace_4, ↓load_const, cc_iff, ea, and_imm, and_imm_left, ilog2_lit,
        or_eq_zero, or_mod32, or_lt_2p31, Nat.mod_mod, Nat.zero_or, Nat.or_zero,
        Nat.sub_zero, Nat.add_mod_right, lane_eq, Machine.io_eq_get, Nat.xor_self,
        Loc.x.injEq, Loc.g.injEq, Loc.m.injEq, Bool.toNat_eq_zero, Bool.toNat_eq_one,
        Nat.reducePow, Nat.reduceMul, Nat.reduceMod, Nat.reduceAdd, Nat.reduceSub,
        Nat.reduceDiv, Nat.reduceEqDiff, Nat.reduceLTLE, Nat.reduceLeDiff, Nat.reduceLT,
        Nat.reduceGT, Nat.reduceOr, Nat.reduceXor, reduceCtorEq, Bool.not_eq_true',
        Bool.not_eq_true, decide_eq_true_eq, decide_eq_false_iff_not, Bool.and_eq_true,
        Bool.or_eq_true, bne_iff_ne, beq_iff_eq, ne_eq, Bool.not_eq_false',
        Bool.not_eq_false, decide_not, not_not, Bool.decide_eq_true, Bool.false_eq_true,
        Bool.true_eq_false, not_false_eq_true, not_true_eq_false, and_true, true_and,
        and_false, false_and, or_true, true_or, or_false, false_or, not_true,
        not_false_iff, iff_self, true_iff, iff_true, false_iff, iff_false, ite_self,
        decide_eq_decide, decide_False, decide_True, Bool.not_true, Bool.not_false]
    all_goals omega
  · set_option maxRecDepth 8000 in
    simp only [
        ↓reduceIte, hx, hy, ↓fast_pow.pow_L_2TAG_PACKET_6_0_2_1_sem,
        ↓fast_pow.pow_L_2TAG_PACKET_0_0_2_1_sem, ↓fast_pow.pow_B1_2_1_sem,
        ↓fast_pow.pow_start_1_sem, ↓fast_pow.pow_entry_1_sem, ↓Machine.get_setx,
        ↓Machine.get_setg, ↓Machine.get_setstk, ↓Machine.get_enter, ↓Machine.get_setFlags,
        ↓Machine.trace_set, ↓Machine.get_ite, ↓Machine.trace_ite, ↓Machine.obs_eq_get,
        ↓Machine.flags_get, ↓Machine.flags_trace, ↓sem_get_1, ↓sem_get_2, ↓sem_get_3,
        ↓sem_get_4, ↓sem_trace_1, ↓sem_trace_2, ↓sem_trace_3, ↓sem_trace_4, ↓load_const,
        cc_iff, ea, and_imm, and_imm_left, ilog2_lit, or_eq_zero, or_mod32, or_lt_2p31,
        Nat.mod_mod, Nat.zero_or, Nat.or_zero, Nat.sub_zero, Nat.add_mod_right, lane_eq,
        Machine.io_eq_get, Nat.xor_self, Loc.x.injEq, Loc.g.injEq, Loc.m.injEq,
        Bool.toNat_eq_zero, Bool.toNat_eq_one, Nat.reducePow, Nat.reduceMul,
        Nat.reduceMod, Nat.reduceAdd, Nat.reduceSub, Nat.reduceDiv, Nat.reduceEqDiff,
        Nat.reduceLTLE, Nat.reduceLeDiff, Nat.reduceLT, Nat.reduceGT, Nat.reduceOr,
        Nat.reduceXor, reduceCtorEq, Bool.not_eq_true', Bool.not_eq_true,
        decide_eq_true_eq, decide_eq_false_iff_not, Bool.and_eq_true, Bool.or_eq_true,
        bne_iff_ne, beq_iff_eq, ne_eq, Bool.not_eq_false', Bool.not_eq_false, decide_not,
        not_not, Bool.decide_eq_true, Bool.false_eq_true, Bool.true_eq_false,
        not_false_eq_true, not_true_eq_false, and_true, true_and, and_false, false_and,
        or_true, true_or, or_false, false_or, not_true, not_false_iff, iff_self, true_iff,
        iff_true, false_iff, iff_false, ite_self, decide_eq_decide, decide_False,
        decide_True, Bool.not_true, Bool.not_false]
    all_goals omega
  · set_option maxRecDepth 8000 in
    simp only [
        ↓reduceIte, hx, hy, ↓fast_pow.pow_L_2TAG_PACKET_0_0_2_1_sem,
        ↓fast_pow.pow_B1_2_1_sem, ↓fast_pow.pow_start_1_sem, ↓fast_pow.pow_entry_1_sem,
        ↓Machine.get_setx, ↓Machine.get_setg, ↓Machine.get_setstk, ↓Machine.get_enter,
        ↓Machine.get_setFlags, ↓Machine.trace_set, ↓Machine.get_ite, ↓Machine.trace_ite,
        ↓Machine.obs_eq_get, ↓Machine.flags_get, ↓Machine.flags_trace, ↓sem_get_1,
        ↓sem_get_2, ↓sem_get_3, ↓sem_get_4, ↓sem_trace_1, ↓sem_trace_2, ↓sem_trace_3,
        ↓sem_trace_4, ↓load_const, cc_iff, ea, and_imm, and_imm_left, ilog2_lit,
        or_eq_zero, or_mod32, or_lt_2p31, Nat.mod_mod, Nat.zero_or, Nat.or_zero,
        Nat.sub_zero, Nat.add_mod_right, lane_eq, Machine.io_eq_get, Nat.xor_self,
        Loc.x.injEq, Loc.g.injEq, Loc.m.injEq, Bool.toNat_eq_zero, Bool.toNat_eq_one,
        Nat.reducePow, Nat.reduceMul, Nat.reduceMod, Nat.reduceAdd, Nat.reduceSub,
        Nat.reduceDiv, Nat.reduceEqDiff, Nat.reduceLTLE, Nat.reduceLeDiff, Nat.reduceLT,
        Nat.reduceGT, Nat.reduceOr, Nat.reduceXor, reduceCtorEq, Bool.not_eq_true',
        Bool.not_eq_true, decide_eq_true_eq, decide_eq_false_iff_not, Bool.and_eq_true,
        Bool.or_eq_true, bne_iff_ne, beq_iff_eq, ne_eq, Bool.not_eq_false',
        Bool.not_eq_false, decide_not, not_not, Bool.decide_eq_true, Bool.false_eq_true,
        Bool.true_eq_false, not_false_eq_true, not_true_eq_false, and_true, true_and,
        and_false, false_and, or_true, true_or, or_false, false_or, not_true,
        not_false_iff, iff_self, true_iff, iff_true, false_iff, iff_false, ite_self,
        decide_eq_decide, decide_False, decide_True, Bool.not_true, Bool.not_false]
    all_goals omega
  · set_option maxRecDepth 8000 in
    simp only [
        ↓reduceIte, hx, hy, ↓fast_pow.pow_B1_2_1_sem, ↓fast_pow.pow_start_1_sem,
        ↓fast_pow.pow_entry_1_sem, ↓Machine.get_setx, ↓Machine.get_setg,
        ↓Machine.get_setstk, ↓Machine.get_enter, ↓Machine.get_setFlags,
        ↓Machine.trace_set, ↓Machine.get_ite, ↓Machine.trace_ite, ↓Machine.obs_eq_get,
        ↓Machine.flags_get, ↓Machine.flags_trace, ↓sem_get_1, ↓sem_get_2, ↓sem_get_3,
        ↓sem_get_4, ↓sem_trace_1, ↓sem_trace_2, ↓sem_trace_3, ↓sem_trace_4, ↓load_const,
        cc_iff, ea, and_imm, and_imm_left, ilog2_lit, or_eq_zero, or_mod32, or_lt_2p31,
        Nat.mod_mod, Nat.zero_or, Nat.or_zero, Nat.sub_zero, Nat.add_mod_right, lane_eq,
        Machine.io_eq_get, Nat.xor_self, Loc.x.injEq, Loc.g.injEq, Loc.m.injEq,
        Bool.toNat_eq_zero, Bool.toNat_eq_one, Nat.reducePow, Nat.reduceMul,
        Nat.reduceMod, Nat.reduceAdd, Nat.reduceSub, Nat.reduceDiv, Nat.reduceEqDiff,
        Nat.reduceLTLE, Nat.reduceLeDiff, Nat.reduceLT, Nat.reduceGT, Nat.reduceOr,
        Nat.reduceXor, reduceCtorEq, Bool.not_eq_true', Bool.not_eq_true,
        decide_eq_true_eq, decide_eq_false_iff_not, Bool.and_eq_true, Bool.or_eq_true,
        bne_iff_ne, beq_iff_eq, ne_eq, Bool.not_eq_false', Bool.not_eq_false, decide_not,
        not_not, Bool.decide_eq_true, Bool.false_eq_true, Bool.true_eq_false,
        not_false_eq_true, not_true_eq_false, and_true, true_and, and_false, false_and,
        or_true, true_or, or_false, false_or, not_true, not_false_iff, iff_self, true_iff,
        iff_true, false_iff, iff_false, ite_self, decide_eq_decide, decide_False,
        decide_True, Bool.not_true, Bool.not_false]
    all_goals omega

theorem fast_pow_ninf_pinf_run (cpu : Cpu) (s : Machine) (hx : s.arg0 = 0xFFF0000000000000)
    (hy : s.arg1 = 0x7FF0000000000000) :
    (fast_pow cpu s).result = 0x7FF0000000000000 := by
  simp only [Machine.io_eq_get, Nat.reducePow] at hx hy
  rw [
      fast_pow, fast_pow.pow_entry_eq, fast_pow.pow_start_eq, fast_pow.pow_B1_2_eq, if_pos,
      fast_pow.pow_L_2TAG_PACKET_0_0_2_eq, if_pos, fast_pow.pow_L_2TAG_PACKET_6_0_2_eq,
      if_pos, fast_pow.pow_L_2TAG_PACKET_15_0_2_eq, if_neg, if_neg, if_neg,
      fast_pow.pow_L_2TAG_PACKET_20_0_2_eq, if_pos, fast_pow.pow_L_2TAG_PACKET_21_0_2_eq,
      if_pos, fast_pow.pow_L_2TAG_PACKET_24_0_2_eq, if_neg, fast_pow.pow_B1_5_eq]
  · set_option maxRecDepth 8000 in
    simp only [
        ↓reduceIte, hx, hy, ↓fast_pow.pow_B1_5_1_sem,
        ↓fast_pow.pow_L_2TAG_PACKET_24_0_2_2_sem,
        ↓fast_pow.pow_L_2TAG_PACKET_24_0_2_1_sem,
        ↓fast_pow.pow_L_2TAG_PACKET_21_0_2_1_sem,
        ↓fast_pow.pow_L_2TAG_PACKET_20_0_2_1_sem,
        ↓fast_pow.pow_L_2TAG_PACKET_15_0_2_4_sem,
        ↓fast_pow.pow_L_2TAG_PACKET_15_0_2_3_sem,
        ↓fast_pow.pow_L_2TAG_PACKET_15_0_2_2_sem,
        ↓fast_pow.pow_L_2TAG_PACKET_15_0_2_1_sem, ↓fast_pow.pow_L_2TAG_PACKET_6_0_2_1_sem,
        ↓fast_pow.pow_L_2TAG_PACKET_0_0_2_1_sem, ↓fast_pow.pow_B1_2_1_sem,
        ↓fast_pow.pow_start_1_sem, ↓fast_pow.pow_entry_1_sem, ↓Machine.get_setx,
        ↓Machine.get_setg, ↓Machine.get_setstk, ↓Machine.get_enter, ↓Machine.get_setFlags,
        ↓Machine.trace_set, ↓Machine.get_ite, ↓Machine.trace_ite, ↓Machine.obs_eq_get,
        ↓Machine.flags_get, ↓Machine.flags_trace, ↓sem_get_1, ↓sem_get_2, ↓sem_get_3,
        ↓sem_get_4, ↓sem_trace_1, ↓sem_trace_2, ↓sem_trace_3, ↓sem_trace_4, ↓load_const,
        cc_iff, ea, and_imm, and_imm_left, ilog2_lit, or_eq_zero, or_mod32, or_lt_2p31,
        Nat.mod_mod, Nat.zero_or, Nat.or_zero, Nat.sub_zero, Nat.add_mod_right, lane_eq,
        Machine.io_eq_get, Nat.xor_self, Loc.x.injEq, Loc.g.injEq, Loc.m.injEq,
        Bool.toNat_eq_zero, Bool.toNat_eq_one, Nat.reducePow, Nat.reduceMul,
        Nat.reduceMod, Nat.reduceAdd, Nat.reduceSub, Nat.reduceDiv, Nat.reduceEqDiff,
        Nat.reduceLTLE, Nat.reduceLeDiff, Nat.reduceLT, Nat.reduceGT, Nat.reduceOr,
        Nat.reduceXor, reduceCtorEq, Bool.not_eq_true', Bool.not_eq_true,
        decide_eq_true_eq, decide_eq_false_iff_not, Bool.and_eq_true, Bool.or_eq_true,
        bne_iff_ne, beq_iff_eq, ne_eq, Bool.not_eq_false', Bool.not_eq_false, decide_not,
        not_not, Bool.decide_eq_true, Bool.false_eq_true, Bool.true_eq_false,
        not_false_eq_true, not_true_eq_false, and_true, true_and, and_false, false_and,
        or_true, true_or, or_false, false_or, not_true, not_false_iff, iff_self, true_iff,
        iff_true, false_iff, iff_false, ite_self, decide_eq_decide, decide_False,
        decide_True, Bool.not_true, Bool.not_false]
  · set_option maxRecDepth 8000 in
    simp only [
        ↓reduceIte, hx, hy, ↓fast_pow.pow_L_2TAG_PACKET_24_0_2_1_sem,
        ↓fast_pow.pow_L_2TAG_PACKET_21_0_2_1_sem,
        ↓fast_pow.pow_L_2TAG_PACKET_20_0_2_1_sem,
        ↓fast_pow.pow_L_2TAG_PACKET_15_0_2_4_sem,
        ↓fast_pow.pow_L_2TAG_PACKET_15_0_2_3_sem,
        ↓fast_pow.pow_L_2TAG_PACKET_15_0_2_2_sem,
        ↓fast_pow.pow_L_2TAG_PACKET_15_0_2_1_sem, ↓fast_pow.pow_L_2TAG_PACKET_6_0_2_1_sem,
        ↓fast_pow.pow_L_2TAG_PACKET_0_0_2_1_sem, ↓fast_pow.pow_B1_2_1_sem,
        ↓fast_pow.pow_start_1_sem, ↓fast_pow.pow_entry_1_sem, ↓Machine.get_setx,
        ↓Machine.get_setg, ↓Machine.get_setstk, ↓Machine.get_enter, ↓Machine.get_setFlags,
        ↓Machine.trace_set, ↓Machine.get_ite, ↓Machine.trace_ite, ↓Machine.obs_eq_get,
        ↓Machine.flags_get, ↓Machine.flags_trace, ↓sem_get_1, ↓sem_get_2, ↓sem_get_3,
        ↓sem_get_4, ↓sem_trace_1, ↓sem_trace_2, ↓sem_trace_3, ↓sem_trace_4, ↓load_const,
        cc_iff, ea, and_imm, and_imm_left, ilog2_lit, or_eq_zero, or_mod32, or_lt_2p31,
        Nat.mod_mod, Nat.zero_or, Nat.or_zero, Nat.sub_zero, Nat.add_mod_right, lane_eq,
        Machine.io_eq_get, Nat.xor_self, Loc.x.injEq, Loc.g.injEq, Loc.m.injEq,
        Bool.toNat_eq_zero, Bool.toNat_eq_one, Nat.reducePow, Nat.reduceMul,
        Nat.reduceMod, Nat.reduceAdd, Nat.reduceSub, Nat.reduceDiv, Nat.reduceEqDiff,
        Nat.reduceLTLE, Nat.reduceLeDiff, Nat.reduceLT, Nat.reduceGT, Nat.reduceOr,
        Nat.reduceXor, reduceCtorEq, Bool.not_eq_true', Bool.not_eq_true,
        decide_eq_true_eq, decide_eq_false_iff_not, Bool.and_eq_true, Bool.or_eq_true,
        bne_iff_ne, beq_iff_eq, ne_eq, Bool.not_eq_false', Bool.not_eq_false, decide_not,
        not_not, Bool.decide_eq_true, Bool.false_eq_true, Bool.true_eq_false,
        not_false_eq_true, not_true_eq_false, and_true, true_and, and_false, false_and,
        or_true, true_or, or_false, false_or, not_true, not_false_iff, iff_self, true_iff,
        iff_true, false_iff, iff_false, ite_self, decide_eq_decide, decide_False,
        decide_True, Bool.not_true, Bool.not_false]
    all_goals omega
  · set_option maxRecDepth 8000 in
    simp only [
        ↓reduceIte, hx, hy, ↓fast_pow.pow_L_2TAG_PACKET_21_0_2_1_sem,
        ↓fast_pow.pow_L_2TAG_PACKET_20_0_2_1_sem,
        ↓fast_pow.pow_L_2TAG_PACKET_15_0_2_4_sem,
        ↓fast_pow.pow_L_2TAG_PACKET_15_0_2_3_sem,
        ↓fast_pow.pow_L_2TAG_PACKET_15_0_2_2_sem,
        ↓fast_pow.pow_L_2TAG_PACKET_15_0_2_1_sem, ↓fast_pow.pow_L_2TAG_PACKET_6_0_2_1_sem,
        ↓fast_pow.pow_L_2TAG_PACKET_0_0_2_1_sem, ↓fast_pow.pow_B1_2_1_sem,
        ↓fast_pow.pow_start_1_sem, ↓fast_pow.pow_entry_1_sem, ↓Machine.get_setx,
        ↓Machine.get_setg, ↓Machine.get_setstk, ↓Machine.get_enter, ↓Machine.get_setFlags,
        ↓Machine.trace_set, ↓Machine.get_ite, ↓Machine.trace_ite, ↓Machine.obs_eq_get,
        ↓Machine.flags_get, ↓Machine.flags_trace, ↓sem_get_1, ↓sem_get_2, ↓sem_get_3,
        ↓sem_get_4, ↓sem_trace_1, ↓sem_trace_2, ↓sem_trace_3, ↓sem_trace_4, ↓load_const,
        cc_iff, ea, and_imm, and_imm_left, ilog2_lit, or_eq_zero, or_mod32, or_lt_2p31,
        Nat.mod_mod, Nat.zero_or, Nat.or_zero, Nat.sub_zero, Nat.add_mod_right, lane_eq,
        Machine.io_eq_get, Nat.xor_self, Loc.x.injEq, Loc.g.injEq, Loc.m.injEq,
        Bool.toNat_eq_zero, Bool.toNat_eq_one, Nat.reducePow, Nat.reduceMul,
        Nat.reduceMod, Nat.reduceAdd, Nat.reduceSub, Nat.reduceDiv, Nat.reduceEqDiff,
        Nat.reduceLTLE, Nat.reduceLeDiff, Nat.reduceLT, Nat.reduceGT, Nat.reduceOr,
        Nat.reduceXor, reduceCtorEq, Bool.not_eq_true', Bool.not_eq_true,
        decide_eq_true_eq, decide_eq_false_iff_not, Bool.and_eq_true, Bool.or_eq_true,
        bne_iff_ne, beq_iff_eq, ne_eq, Bool.not_eq_false', Bool.not_eq_false, decide_not,
        not_not, Bool.decide_eq_true, Bool.false_eq_true, Bool.true_eq_false,
        not_false_eq_true, not_true_eq_false, and_true, true_and, and_false, false_and,
        or_true, true_or, or_false, false_or, not_true, not_false_iff, iff_self, true_iff,
        iff_true, false_iff, iff_false, ite_self, decide_eq_decide, decide_False,
        decide_True, Bool.not_true, Bool.not_false]
    all_goals omega
  · set_option maxRecDepth 8000 in
    simp only [
        ↓reduceIte, hx, hy, ↓fast_pow.pow_L_2TAG_PACKET_20_0_2_1_sem,
        ↓fast_pow.pow_L_2TAG_PACKET_15_0_2_4_sem,
        ↓fast_pow.pow_L_2TAG_PACKET_15_0_2_3_sem,
        ↓fast_pow.pow_L_2TAG_PACKET_15_0_2_2_sem,
        ↓fast_pow.pow_L_2TAG_PACKET_15_0_2_1_sem, ↓fast_pow.pow_L_2TAG_PACKET_6_0_2_1_sem,
        ↓fast_pow.pow_L_2TAG_PACKET_0_0_2_1_sem, ↓fast_pow.pow_B1_2_1_sem,
        ↓fast_pow.pow_start_1_sem, ↓fast_pow.pow_entry_1_sem, ↓Machine.get_setx,
        ↓Machine.get_setg, ↓Machine.get_setstk, ↓Machine.get_enter, ↓Machine.get_setFlags,
        ↓Machine.trace_set, ↓Machine.get_ite, ↓Machine.trace_ite, ↓Machine.obs_eq_get,
        ↓Machine.flags_get, ↓Machine.flags_trace, ↓sem_get_1, ↓sem_get_2, ↓sem_get_3,
        ↓sem_get_4, ↓sem_trace_1, ↓sem_trace_2, ↓sem_trace_3, ↓sem_trace_4, ↓load_const,
        cc_iff, ea, and_imm, and_imm_left, ilog2_lit, or_eq_zero, or_mod32, or_lt_2p31,
        Nat.mod_mod, Nat.zero_or, Nat.or_zero, Nat.sub_zero, Nat.add_mod_right, lane_eq,
        Machine.io_eq_get, Nat.xor_self, Loc.x.injEq, Loc.g.injEq, Loc.m.injEq,
        Bool.toNat_eq_zero, Bool.toNat_eq_one, Nat.reducePow, Nat.reduceMul,
        Nat.reduceMod, Nat.reduceAdd, Nat.reduceSub, Nat.reduceDiv, Nat.reduceEqDiff,
        Nat.reduceLTLE, Nat.reduceLeDiff, Nat.reduceLT, Nat.reduceGT, Nat.reduceOr,
        Nat.reduceXor, reduceCtorEq, Bool.not_eq_true', Bool.not_eq_true,
        decide_eq_true_eq, decide_eq_false_iff_not, Bool.and_eq_true, Bool.or_eq_true,
        bne_iff_ne, beq_iff_eq, ne_eq, Bool.not_eq_false', Bool.not_eq_false, decide_not,
        not_not, Bool.decide_eq_true, Bool.false_eq_true, Bool.true_eq_false,
        not_false_eq_true, not_true_eq_false, and_true, true_and, and_false, false_and,
        or_true, true_or, or_false, false_or, not_true, not_false_iff, iff_self, true_iff,
        iff_true, false_iff, iff_false, ite_self, decide_eq_decide, decide_False,
        decide_True, Bool.not_true, Bool.not_false]
    all_goals omega
  · set_option maxRecDepth 8000 in
    simp only [
        ↓reduceIte, hx, hy, ↓fast_pow.pow_L_2TAG_PACKET_15_0_2_3_sem,
        ↓fast_pow.pow_L_2TAG_PACKET_15_0_2_2_sem,
        ↓fast_pow.pow_L_2TAG_PACKET_15_0_2_1_sem, ↓fast_pow.pow_L_2TAG_PACKET_6_0_2_1_sem,
        ↓fast_pow.pow_L_2TAG_PACKET_0_0_2_1_sem, ↓fast_pow.pow_B1_2_1_sem,
        ↓fast_pow.pow_start_1_sem, ↓fast_pow.pow_entry_1_sem, ↓Machine.get_setx,
        ↓Machine.get_setg, ↓Machine.get_setstk, ↓Machine.get_enter, ↓Machine.get_setFlags,
        ↓Machine.trace_set, ↓Machine.get_ite, ↓Machine.trace_ite, ↓Machine.obs_eq_get,
        ↓Machine.flags_get, ↓Machine.flags_trace, ↓sem_get_1, ↓sem_get_2, ↓sem_get_3,
        ↓sem_get_4, ↓sem_trace_1, ↓sem_trace_2, ↓sem_trace_3, ↓sem_trace_4, ↓load_const,
        cc_iff, ea, and_imm, and_imm_left, ilog2_lit, or_eq_zero, or_mod32, or_lt_2p31,
        Nat.mod_mod, Nat.zero_or, Nat.or_zero, Nat.sub_zero, Nat.add_mod_right, lane_eq,
        Machine.io_eq_get, Nat.xor_self, Loc.x.injEq, Loc.g.injEq, Loc.m.injEq,
        Bool.toNat_eq_zero, Bool.toNat_eq_one, Nat.reducePow, Nat.reduceMul,
        Nat.reduceMod, Nat.reduceAdd, Nat.reduceSub, Nat.reduceDiv, Nat.reduceEqDiff,
        Nat.reduceLTLE, Nat.reduceLeDiff, Nat.reduceLT, Nat.reduceGT, Nat.reduceOr,
        Nat.reduceXor, reduceCtorEq, Bool.not_eq_true', Bool.not_eq_true,
        decide_eq_true_eq, decide_eq_false_iff_not, Bool.and_eq_true, Bool.or_eq_true,
        bne_iff_ne, beq_iff_eq, ne_eq, Bool.not_eq_false', Bool.not_eq_false, decide_not,
        not_not, Bool.decide_eq_true, Bool.false_eq_true, Bool.true_eq_false,
        not_false_eq_true, not_true_eq_false, and_true, true_and, and_false, false_and,
        or_true, true_or, or_false, false_or, not_true, not_false_iff, iff_self, true_iff,
        iff_true, false_iff, iff_false, ite_self, decide_eq_decide, decide_False,
        decide_True, Bool.not_true, Bool.not_false]
    all_goals omega
  · set_option maxRecDepth 8000 in
    simp only [
        ↓reduceIte, hx, hy, ↓fast_pow.pow_L_2TAG_PACKET_15_0_2_2_sem,
        ↓fast_pow.pow_L_2TAG_PACKET_15_0_2_1_sem, ↓fast_pow.pow_L_2TAG_PACKET_6_0_2_1_sem,
        ↓fast_pow.pow_L_2TAG_PACKET_0_0_2_1_sem, ↓fast_pow.pow_B1_2_1_sem,
        ↓fast_pow.pow_start_1_sem, ↓fast_pow.pow_entry_1_sem, ↓Machine.get_setx,
        ↓Machine.get_setg, ↓Machine.get_setstk, ↓Machine.get_enter, ↓Machine.get_setFlags,
        ↓Machine.trace_set, ↓Machine.get_ite, ↓Machine.trace_ite, ↓Machine.obs_eq_get,
        ↓Machine.flags_get, ↓Machine.flags_trace, ↓sem_get_1, ↓sem_get_2, ↓sem_get_3,
        ↓sem_get_4, ↓sem_trace_1, ↓sem_trace_2, ↓sem_trace_3, ↓sem_trace_4, ↓load_const,
        cc_iff, ea, and_imm, and_imm_left, ilog2_lit, or_eq_zero, or_mod32, or_lt_2p31,
        Nat.mod_mod, Nat.zero_or, Nat.or_zero, Nat.sub_zero, Nat.add_mod_right, lane_eq,
        Machine.io_eq_get, Nat.xor_self, Loc.x.injEq, Loc.g.injEq, Loc.m.injEq,
        Bool.toNat_eq_zero, Bool.toNat_eq_one, Nat.reducePow, Nat.reduceMul,
        Nat.reduceMod, Nat.reduceAdd, Nat.reduceSub, Nat.reduceDiv, Nat.reduceEqDiff,
        Nat.reduceLTLE, Nat.reduceLeDiff, Nat.reduceLT, Nat.reduceGT, Nat.reduceOr,
        Nat.reduceXor, reduceCtorEq, Bool.not_eq_true', Bool.not_eq_true,
        decide_eq_true_eq, decide_eq_false_iff_not, Bool.and_eq_true, Bool.or_eq_true,
        bne_iff_ne, beq_iff_eq, ne_eq, Bool.not_eq_false', Bool.not_eq_false, decide_not,
        not_not, Bool.decide_eq_true, Bool.false_eq_true, Bool.true_eq_false,
        not_false_eq_true, not_true_eq_false, and_true, true_and, and_false, false_and,
        or_true, true_or, or_false, false_or, not_true, not_false_iff, iff_self, true_iff,
        iff_true, false_iff, iff_false, ite_self, decide_eq_decide, decide_False,
        decide_True, Bool.not_true, Bool.not_false]
    all_goals omega
  · set_option maxRecDepth 8000 in
    simp only [
        ↓reduceIte, hx, hy, ↓fast_pow.pow_L_2TAG_PACKET_15_0_2_1_sem,
        ↓fast_pow.pow_L_2TAG_PACKET_6_0_2_1_sem, ↓fast_pow.pow_L_2TAG_PACKET_0_0_2_1_sem,
        ↓fast_pow.pow_B1_2_1_sem, ↓fast_pow.pow_start_1_sem, ↓fast_pow.pow_entry_1_sem,
        ↓Machine.get_setx, ↓Machine.get_setg, ↓Machine.get_setstk, ↓Machine.get_enter,
        ↓Machine.get_setFlags, ↓Machine.trace_set, ↓Machine.get_ite, ↓Machine.trace_ite,
        ↓Machine.obs_eq_get, ↓Machine.flags_get, ↓Machine.flags_trace, ↓sem_get_1,
        ↓sem_get_2, ↓sem_get_3, ↓sem_get_4, ↓sem_trace_1, ↓sem_trace_2, ↓sem_trace_3,
        ↓sem_trace_4, ↓load_const, cc_iff, ea, and_imm, and_imm_left, ilog2_lit,
        or_eq_zero, or_mod32, or_lt_2p31, Nat.mod_mod, Nat.zero_or, Nat.or_zero,
        Nat.sub_zero, Nat.add_mod_right, lane_eq, Machine.io_eq_get, Nat.xor_self,
        Loc.x.injEq, Loc.g.injEq, Loc.m.injEq, Bool.toNat_eq_zero, Bool.toNat_eq_one,
        Nat.reducePow, Nat.reduceMul, Nat.reduceMod, Nat.reduceAdd, Nat.reduceSub,
        Nat.reduceDiv, Nat.reduceEqDiff, Nat.reduceLTLE, Nat.reduceLeDiff, Nat.reduceLT,
        Nat.reduceGT, Nat.reduceOr, Nat.reduceXor, reduceCtorEq, Bool.not_eq_true',
        Bool.not_eq_true, decide_eq_true_eq, decide_eq_false_iff_not, Bool.and_eq_true,
        Bool.or_eq_true, bne_iff_ne, beq_iff_eq, ne_eq, Bool.not_eq_false',
        Bool.not_eq_false, decide_not, not_not, Bool.decide_eq_true, Bool.false_eq_true,
        Bool.true_eq_false, not_false_eq_true, not_true_eq_false, and_true, true_and,
        and_false, false_and, or_true, true_or, or_false, false_or, not_true,
        not_false_iff, iff_self, true_iff, iff_true, false_iff, iff_false, ite_self,
        decide_eq_decide, decide_False, decide_True, Bool.not_true, Bool.not_false]
    all_goals omega
  · set_option maxRecDepth 8000 in
    simp only [
        ↓reduceIte, hx, hy, ↓fast_pow.pow_L_2TAG_PACKET_6_0_2_1_sem,
        ↓fast_pow.pow_L_2TAG_PACKET_0_0_2_1_sem, ↓fast_pow.pow_B1_2_1_sem,
        ↓fast_pow.pow_start_1_sem, ↓fast_pow.pow_entry_1_sem, ↓Machine.get_setx,
        ↓Machine.get_setg, ↓Machine.get_setstk, ↓Machine.get_enter, ↓Machine.get_setFlags,
        ↓Machine.trace_set, ↓Machine.get_ite, ↓Machine.trace_ite, ↓Machine.obs_eq_get,
        ↓Machine.flags_get, ↓Machine.flags_trace, ↓sem_get_1, ↓sem_get_2, ↓sem_get_3,
        ↓sem_get_4, ↓sem_trace_1, ↓sem_trace_2, ↓sem_trace_3, ↓sem_trace_4, ↓load_const,
        cc_iff, ea, and_imm, and_imm_left, ilog2_lit, or_eq_zero, or_mod32, or_lt_2p31,
        Nat.mod_mod, Nat.zero_or, Nat.or_zero, Nat.sub_zero, Nat.add_mod_right, lane_eq,
        Machine.io_eq_get, Nat.xor_self, Loc.x.injEq, Loc.g.injEq, Loc.m.injEq,
        Bool.toNat_eq_zero, Bool.toNat_eq_one, Nat.reducePow, Nat.reduceMul,
        Nat.reduceMod, Nat.reduceAdd, Nat.reduceSub, Nat.reduceDiv, Nat.reduceEqDiff,
        Nat.reduceLTLE, Nat.reduceLeDiff, Nat.reduceLT, Nat.reduceGT, Nat.reduceOr,
        Nat.reduceXor, reduceCtorEq, Bool.not_eq_true', Bool.not_eq_true,
        decide_eq_true_eq, decide_eq_false_iff_not, Bool.and_eq_true, Bool.or_eq_true,
        bne_iff_ne, beq_iff_eq, ne_eq, Bool.not_eq_false', Bool.not_eq_false, decide_not,
        not_not, Bool.decide_eq_true, Bool.false_eq_true, Bool.true_eq_false,
        not_false_eq_true, not_true_eq_false, and_true, true_and, and_false, false_and,
        or_true, true_or, or_false, false_or, not_true, not_false_iff, iff_self, true_iff,
        iff_true, false_iff, iff_false, ite_self, decide_eq_decide, decide_False,
        decide_True, Bool.not_true, Bool.not_false]
    all_goals omega
  · set_option maxRecDepth 8000 in
    simp only [
        ↓reduceIte, hx, hy, ↓fast_pow.pow_L_2TAG_PACKET_0_0_2_1_sem,
        ↓fast_pow.pow_B1_2_1_sem, ↓fast_pow.pow_start_1_sem, ↓fast_pow.pow_entry_1_sem,
        ↓Machine.get_setx, ↓Machine.get_setg, ↓Machine.get_setstk, ↓Machine.get_enter,
        ↓Machine.get_setFlags, ↓Machine.trace_set, ↓Machine.get_ite, ↓Machine.trace_ite,
        ↓Machine.obs_eq_get, ↓Machine.flags_get, ↓Machine.flags_trace, ↓sem_get_1,
        ↓sem_get_2, ↓sem_get_3, ↓sem_get_4, ↓sem_trace_1, ↓sem_trace_2, ↓sem_trace_3,
        ↓sem_trace_4, ↓load_const, cc_iff, ea, and_imm, and_imm_left, ilog2_lit,
        or_eq_zero, or_mod32, or_lt_2p31, Nat.mod_mod, Nat.zero_or, Nat.or_zero,
        Nat.sub_zero, Nat.add_mod_right, lane_eq, Machine.io_eq_get, Nat.xor_self,
        Loc.x.injEq, Loc.g.injEq, Loc.m.injEq, Bool.toNat_eq_zero, Bool.toNat_eq_one,
        Nat.reducePow, Nat.reduceMul, Nat.reduceMod, Nat.reduceAdd, Nat.reduceSub,
        Nat.reduceDiv, Nat.reduceEqDiff, Nat.reduceLTLE, Nat.reduceLeDiff, Nat.reduceLT,
        Nat.reduceGT, Nat.reduceOr, Nat.reduceXor, reduceCtorEq, Bool.not_eq_true',
        Bool.not_eq_true, decide_eq_true_eq, decide_eq_false_iff_not, Bool.and_eq_true,
        Bool.or_eq_true, bne_iff_ne, beq_iff_eq, ne_eq, Bool.not_eq_false',
        Bool.not_eq_false, decide_not, not_not, Bool.decide_eq_true, Bool.false_eq_true,
        Bool.true_eq_false, not_false_eq_true, not_true_eq_false, and_true, true_and,
        and_false, false_and, or_true, true_or, or_false, false_or, not_true,
        not_false_iff, iff_self, true_iff, iff_true, false_iff, iff_false, ite_self,
        decide_eq_decide, decide_False, decide_True, Bool.not_true, Bool.not_false]
    all_goals omega
  · set_option maxRecDepth 8000 in
    simp only [
        ↓reduceIte, hx, hy, ↓fast_pow.pow_B1_2_1_sem, ↓fast_pow.pow_start_1_sem,
        ↓fast_pow.pow_entry_1_sem, ↓Machine.get_setx, ↓Machine.get_setg,
        ↓Machine.get_setstk, ↓Machine.get_enter, ↓Machine.get_setFlags,
        ↓Machine.trace_set, ↓Machine.get_ite, ↓Machine.trace_ite, ↓Machine.obs_eq_get,
        ↓Machine.flags_get, ↓Machine.flags_trace, ↓sem_get_1, ↓sem_get_2, ↓sem_get_3,
        ↓sem_get_4, ↓sem_trace_1, ↓sem_trace_2, ↓sem_trace_3, ↓sem_trace_4, ↓load_const,
        cc_iff, ea, and_imm, and_imm_left, ilog2_lit, or_eq_zero, or_mod32, or_lt_2p31,
        Nat.mod_mod, Nat.zero_or, Nat.or_zero, Nat.sub_zero, Nat.add_mod_right, lane_eq,
        Machine.io_eq_get, Nat.xor_self, Loc.x.injEq, Loc.g.injEq, Loc.m.injEq,
        Bool.toNat_eq_zero, Bool.toNat_eq_one, Nat.reducePow, Nat.reduceMul,
        Nat.reduceMod, Nat.reduceAdd, Nat.reduceSub, Nat.reduceDiv, Nat.reduceEqDiff,
        Nat.reduceLTLE, Nat.reduceLeDiff, Nat.reduceLT, Nat.reduceGT, Nat.reduceOr,
        Nat.reduceXor, reduceCtorEq, Bool.not_eq_true', Bool.not_eq_true,
        decide_eq_true_eq, decide_eq_false_iff_not, Bool.and_eq_true, Bool.or_eq_true,
        bne_iff_ne, beq_iff_eq, ne_eq, Bool.not_eq_false', Bool.not_eq_false, decide_not,
        not_not, Bool.decide_eq_true, Bool.false_eq_true, Bool.true_eq_false,
        not_false_eq_true, not_true_eq_false, and_true, true_and, and_false, false_and,
        or_true, true_or, or_false, false_or, not_true, not_false_iff, iff_self, true_iff,
        iff_true, false_iff, iff_false, ite_self, decide_eq_decide, decide_False,
        decide_True, Bool.not_true, Bool.not_false]
    all_goals omega

theorem fast_pow_neg_one_inf_run (cpu : Cpu) (s : Machine) (hx : s.arg0 = 0xBFF0000000000000)
    (hy : s.arg1 = 0x7FF0000000000000 ∨ s.arg1 = 0xFFF0000000000000) :
    (fast_pow cpu s).result = 0x7FF8000000000000 := by
  simp only [Machine.io_eq_get, Nat.reducePow] at hx hy
  rw [
      fast_pow, fast_pow.pow_entry_eq, fast_pow.pow_start_eq, fast_pow.pow_B1_2_eq, if_pos,
      fast_pow.pow_L_2TAG_PACKET_0_0_2_eq, if_neg, if_pos,
      fast_pow.pow_L_2TAG_PACKET_7_0_2_eq, if_neg, if_neg, if_pos,
      fast_pow.pow_L_2TAG_PACKET_28_0_2_eq, if_pos, fast_pow.pow_L_2TAG_PACKET_29_0_2_eq,
      if_neg, if_neg, fast_pow.pow_B1_5_eq]
  · set_option maxRecDepth 8000 in
    simp only [
        ↓reduceIte, hx, ↓fast_pow.pow_B1_5_1_sem,
        ↓fast_pow.pow_L_2TAG_PACKET_29_0_2_3_sem,
        ↓fast_pow.pow_L_2TAG_PACKET_29_0_2_2_sem,
        ↓fast_pow.pow_L_2TAG_PACKET_29_0_2_1_sem,
        ↓fast_pow.pow_L_2TAG_PACKET_28_0_2_1_sem, ↓fast_pow.pow_L_2TAG_PACKET_7_0_2_3_sem,
        ↓fast_pow.pow_L_2TAG_PACKET_7_0_2_2_sem, ↓fast_pow.pow_L_2TAG_PACKET_7_0_2_1_sem,
        ↓fast_pow.pow_L_2TAG_PACKET_0_0_2_2_sem, ↓fast_pow.pow_L_2TAG_PACKET_0_0_2_1_sem,
        ↓fast_pow.pow_B1_2_1_sem, ↓fast_pow.pow_start_1_sem, ↓fast_pow.pow_entry_1_sem,
        ↓Machine.get_setx, ↓Machine.get_setg, ↓Machine.get_setstk, ↓Machine.get_enter,
        ↓Machine.get_setFlags, ↓Machine.trace_set, ↓Machine.get_ite, ↓Machine.trace_ite,
        ↓Machine.obs_eq_get, ↓Machine.flags_get, ↓Machine.flags_trace, ↓sem_get_1,
        ↓sem_get_2, ↓sem_get_3, ↓sem_get_4, ↓sem_trace_1, ↓sem_trace_2, ↓sem_trace_3,
        ↓sem_trace_4, ↓load_const, cc_iff, ea, and_imm, and_imm_left, ilog2_lit,
        or_eq_zero, or_mod32, or_lt_2p31, Nat.mod_mod, Nat.zero_or, Nat.or_zero,
        Nat.sub_zero, Nat.add_mod_right, lane_eq, Machine.io_eq_get, Nat.xor_self,
        Loc.x.injEq, Loc.g.injEq, Loc.m.injEq, Bool.toNat_eq_zero, Bool.toNat_eq_one,
        Nat.reducePow, Nat.reduceMul, Nat.reduceMod, Nat.reduceAdd, Nat.reduceSub,
        Nat.reduceDiv, Nat.reduceEqDiff, Nat.reduceLTLE, Nat.reduceLeDiff, Nat.reduceLT,
        Nat.reduceGT, Nat.reduceOr, Nat.reduceXor, reduceCtorEq, Bool.not_eq_true',
        Bool.not_eq_true, decide_eq_true_eq, decide_eq_false_iff_not, Bool.and_eq_true,
        Bool.or_eq_true, bne_iff_ne, beq_iff_eq, ne_eq, Bool.not_eq_false',
        Bool.not_eq_false, decide_not, not_not, Bool.decide_eq_true, Bool.false_eq_true,
        Bool.true_eq_false, not_false_eq_true, not_true_eq_false, and_true, true_and,
        and_false, false_and, or_true, true_or, or_false, false_or, not_true,
        not_false_iff, iff_self, true_iff, iff_true, false_iff, iff_false, ite_self,
        decide_eq_decide, decide_False, decide_True, Bool.not_true, Bool.not_false]
  · set_option maxRecDepth 8000 in
    simp only [
        ↓reduceIte, hx, ↓fast_pow.pow_L_2TAG_PACKET_29_0_2_2_sem,
        ↓fast_pow.pow_L_2TAG_PACKET_29_0_2_1_sem,
        ↓fast_pow.pow_L_2TAG_PACKET_28_0_2_1_sem, ↓fast_pow.pow_L_2TAG_PACKET_7_0_2_3_sem,
        ↓fast_pow.pow_L_2TAG_PACKET_7_0_2_2_sem, ↓fast_pow.pow_L_2TAG_PACKET_7_0_2_1_sem,
        ↓fast_pow.pow_L_2TAG_PACKET_0_0_2_2_sem, ↓fast_pow.pow_L_2TAG_PACKET_0_0_2_1_sem,
        ↓fast_pow.pow_B1_2_1_sem, ↓fast_pow.pow_start_1_sem, ↓fast_pow.pow_entry_1_sem,
        ↓Machine.get_setx, ↓Machine.get_setg, ↓Machine.get_setstk, ↓Machine.get_enter,
        ↓Machine.get_setFlags, ↓Machine.trace_set, ↓Machine.get_ite, ↓Machine.trace_ite,
        ↓Machine.obs_eq_get, ↓Machine.flags_get, ↓Machine.flags_trace, ↓sem_get_1,
        ↓sem_get_2, ↓sem_get_3, ↓sem_get_4, ↓sem_trace_1, ↓sem_trace_2, ↓sem_trace_3,
        ↓sem_trace_4, ↓load_const, cc_iff, ea, and_imm, and_imm_left, ilog2_lit,
        or_eq_zero, or_mod32, or_lt_2p31, Nat.mod_mod, Nat.zero_or, Nat.or_zero,
        Nat.sub_zero, Nat.add_mod_right, lane_eq, Machine.io_eq_get, Nat.xor_self,
        Loc.x.injEq, Loc.g.injEq, Loc.m.injEq, Bool.toNat_eq_zero, Bool.toNat_eq_one,
        Nat.reducePow, Nat.reduceMul, Nat.reduceMod, Nat.reduceAdd, Nat.reduceSub,
        Nat.reduceDiv, Nat.reduceEqDiff, Nat.reduceLTLE, Nat.reduceLeDiff, Nat.reduceLT,
        Nat.reduceGT, Nat.reduceOr, Nat.reduceXor, reduceCtorEq, Bool.not_eq_true',
        Bool.not_eq_true, decide_eq_true_eq, decide_eq_false_iff_not, Bool.and_eq_true,
        Bool.or_eq_true, bne_iff_ne, beq_iff_eq, ne_eq, Bool.not_eq_false',
        Bool.not_eq_false, decide_not, not_not, Bool.decide_eq_true, Bool.false_eq_true,
        Bool.true_eq_false, not_false_eq_true, not_true_eq_false, and_true, true_and,
        and_false, false_and, or_true, true_or, or_false, false_or, not_true,
        not_false_iff, iff_self, true_iff, iff_true, false_iff, iff_false, ite_self,
        decide_eq_decide, decide_False, decide_True, Bool.not_true, Bool.not_false]
    all_goals omega
  · set_option maxRecDepth 8000 in
    simp only [
        ↓reduceIte, hx, ↓fast_pow.pow_L_2TAG_PACKET_29_0_2_1_sem,
        ↓fast_pow.pow_L_2TAG_PACKET_28_0_2_1_sem, ↓fast_pow.pow_L_2TAG_PACKET_7_0_2_3_sem,
        ↓fast_pow.pow_L_2TAG_PACKET_7_0_2_2_sem, ↓fast_pow.pow_L_2TAG_PACKET_7_0_2_1_sem,
        ↓fast_pow.pow_L_2TAG_PACKET_0_0_2_2_sem, ↓fast_pow.pow_L_2TAG_PACKET_0_0_2_1_sem,
        ↓fast_pow.pow_B1_2_1_sem, ↓fast_pow.pow_start_1_sem, ↓fast_pow.pow_entry_1_sem,
        ↓Machine.get_setx, ↓Machine.get_setg, ↓Machine.get_setstk, ↓Machine.get_enter,
        ↓Machine.get_setFlags, ↓Machine.trace_set, ↓Machine.get_ite, ↓Machine.trace_ite,
        ↓Machine.obs_eq_get, ↓Machine.flags_get, ↓Machine.flags_trace, ↓sem_get_1,
        ↓sem_get_2, ↓sem_get_3, ↓sem_get_4, ↓sem_trace_1, ↓sem_trace_2, ↓sem_trace_3,
        ↓sem_trace_4, ↓load_const, cc_iff, ea, and_imm, and_imm_left, ilog2_lit,
        or_eq_zero, or_mod32, or_lt_2p31, Nat.mod_mod, Nat.zero_or, Nat.or_zero,
        Nat.sub_zero, Nat.add_mod_right, lane_eq, Machine.io_eq_get, Nat.xor_self,
        Loc.x.injEq, Loc.g.injEq, Loc.m.injEq, Bool.toNat_eq_zero, Bool.toNat_eq_one,
        Nat.reducePow, Nat.reduceMul, Nat.reduceMod, Nat.reduceAdd, Nat.reduceSub,
        Nat.reduceDiv, Nat.reduceEqDiff, Nat.reduceLTLE, Nat.reduceLeDiff, Nat.reduceLT,
        Nat.reduceGT, Nat.reduceOr, Nat.reduceXor, reduceCtorEq, Bool.not_eq_true',
        Bool.not_eq_true, decide_eq_true_eq, decide_eq_false_iff_not, Bool.and_eq_true,
        Bool.or_eq_true, bne_iff_ne, beq_iff_eq, ne_eq, Bool.not_eq_false',
        Bool.not_eq_false, decide_not, not_not, Bool.decide_eq_true, Bool.false_eq_true,
        Bool.true_eq_false, not_false_eq_true, not_true_eq_false, and_true, true_and,
        and_false, false_and, or_true, true_or, or_false, false_or, not_true,
        not_false_iff, iff_self, true_iff, iff_true, false_iff, iff_false, ite_self,
        decide_eq_decide, decide_False, decide_True, Bool.not_true, Bool.not_false]
    all_goals omega
  · set_option maxRecDepth 8000 in
    simp only [
        ↓reduceIte, hx, ↓fast_pow.pow_L_2TAG_PACKET_28_0_2_1_sem,
        ↓fast_pow.pow_L_2TAG_PACKET_7_0_2_3_sem, ↓fast_pow.pow_L_2TAG_PACKET_7_0_2_2_sem,
        ↓fast_pow.pow_L_2TAG_PACKET_7_0_2_1_sem, ↓fast_pow.pow_L_2TAG_PACKET_0_0_2_2_sem,
        ↓fast_pow.pow_L_2TAG_PACKET_0_0_2_1_sem, ↓fast_pow.pow_B1_2_1_sem,
        ↓fast_pow.pow_start_1_sem, ↓fast_pow.pow_entry_1_sem, ↓Machine.get_setx,
        ↓Machine.get_setg, ↓Machine.get_setstk, ↓Machine.get_enter, ↓Machine.get_setFlags,
        ↓Machine.trace_set, ↓Machine.get_ite, ↓Machine.trace_ite, ↓Machine.obs_eq_get,
        ↓Machine.flags_get, ↓Machine.flags_trace, ↓sem_get_1, ↓sem_get_2, ↓sem_get_3,
        ↓sem_get_4, ↓sem_trace_1, ↓sem_trace_2, ↓sem_trace_3, ↓sem_trace_4, ↓load_const,
        cc_iff, ea, and_imm, and_imm_left, ilog2_lit, or_eq_zero, or_mod32, or_lt_2p31,
        Nat.mod_mod, Nat.zero_or, Nat.or_zero, Nat.sub_zero, Nat.add_mod_right, lane_eq,
        Machine.io_eq_get, Nat.xor_self, Loc.x.injEq, Loc.g.injEq, Loc.m.injEq,
        Bool.toNat_eq_zero, Bool.toNat_eq_one, Nat.reducePow, Nat.reduceMul,
        Nat.reduceMod, Nat.reduceAdd, Nat.reduceSub, Nat.reduceDiv, Nat.reduceEqDiff,
        Nat.reduceLTLE, Nat.reduceLeDiff, Nat.reduceLT, Nat.reduceGT, Nat.reduceOr,
        Nat.reduceXor, reduceCtorEq, Bool.not_eq_true', Bool.not_eq_true,
        decide_eq_true_eq, decide_eq_false_iff_not, Bool.and_eq_true, Bool.or_eq_true,
        bne_iff_ne, beq_iff_eq, ne_eq, Bool.not_eq_false', Bool.not_eq_false, decide_not,
        not_not, Bool.decide_eq_true, Bool.false_eq_true, Bool.true_eq_false,
        not_false_eq_true, not_true_eq_false, and_true, true_and, and_false, false_and,
        or_true, true_or, or_false, false_or, not_true, not_false_iff, iff_self, true_iff,
        iff_true, false_iff, iff_false, ite_self, decide_eq_decide, decide_False,
        decide_True, Bool.not_true, Bool.not_false]
    all_goals omega
  · set_option maxRecDepth 8000 in
    simp only [
        ↓reduceIte, hx, ↓fast_pow.pow_L_2TAG_PACKET_7_0_2_3_sem,
        ↓fast_pow.pow_L_2TAG_PACKET_7_0_2_2_sem, ↓fast_pow.pow_L_2TAG_PACKET_7_0_2_1_sem,
        ↓fast_pow.pow_L_2TAG_PACKET_0_0_2_2_sem, ↓fast_pow.pow_L_2TAG_PACKET_0_0_2_1_sem,
        ↓fast_pow.pow_B1_2_1_sem, ↓fast_pow.pow_start_1_sem, ↓fast_pow.pow_entry_1_sem,
        ↓Machine.get_setx, ↓Machine.get_setg, ↓Machine.get_setstk, ↓Machine.get_enter,
        ↓Machine.get_setFlags, ↓Machine.trace_set, ↓Machine.get_ite, ↓Machine.trace_ite,
        ↓Machine.obs_eq_get, ↓Machine.flags_get, ↓Machine.flags_trace, ↓sem_get_1,
        ↓sem_get_2, ↓sem_get_3, ↓sem_get_4, ↓sem_trace_1, ↓sem_trace_2, ↓sem_trace_3,
        ↓sem_trace_4, ↓load_const, cc_iff, ea, and_imm, and_imm_left, ilog2_lit,
        or_eq_zero, or_mod32, or_lt_2p31, Nat.mod_mod, Nat.zero_or, Nat.or_zero,
        Nat.sub_zero, Nat.add_mod_right, lane_eq, Machine.io_eq_get, Nat.xor_self,
        Loc.x.injEq, Loc.g.injEq, Loc.m.injEq, Bool.toNat_eq_zero, Bool.toNat_eq_one,
        Nat.reducePow, Nat.reduceMul, Nat.reduceMod, Nat.reduceAdd, Nat.reduceSub,
        Nat.reduceDiv, Nat.reduceEqDiff, Nat.reduceLTLE, Nat.reduceLeDiff, Nat.reduceLT,
        Nat.reduceGT, Nat.reduceOr, Nat.reduceXor, reduceCtorEq, Bool.not_eq_true',
        Bool.not_eq_true, decide_eq_true_eq, decide_eq_false_iff_not, Bool.and_eq_true,
        Bool.or_eq_true, bne_iff_ne, beq_iff_eq, ne_eq, Bool.not_eq_false',
        Bool.not_eq_false, decide_not, not_not, Bool.decide_eq_true, Bool.false_eq_true,
        Bool.true_eq_false, not_false_eq_true, not_true_eq_false, and_true, true_and,
        and_false, false_and, or_true, true_or, or_false, false_or, not_true,
        not_false_iff, iff_self, true_iff, iff_true, false_iff, iff_false, ite_self,
        decide_eq_decide, decide_False, decide_True, Bool.not_true, Bool.not_false]
    all_goals omega
  · set_option maxRecDepth 8000 in
    simp only [
        ↓reduceIte, hx, ↓fast_pow.pow_L_2TAG_PACKET_7_0_2_2_sem,
        ↓fast_pow.pow_L_2TAG_PACKET_7_0_2_1_sem, ↓fast_pow.pow_L_2TAG_PACKET_0_0_2_2_sem,
        ↓fast_pow.pow_L_2TAG_PACKET_0_0_2_1_sem, ↓fast_pow.pow_B1_2_1_sem,
        ↓fast_pow.pow_start_1_sem, ↓fast_pow.pow_entry_1_sem, ↓Machine.get_setx,
        ↓Machine.get_setg, ↓Machine.get_setstk, ↓Machine.get_enter, ↓Machine.get_setFlags,
        ↓Machine.trace_set, ↓Machine.get_ite, ↓Machine.trace_ite, ↓Machine.obs_eq_get,
        ↓Machine.flags_get, ↓Machine.flags_trace, ↓sem_get_1, ↓sem_get_2, ↓sem_get_3,
        ↓sem_get_4, ↓sem_trace_1, ↓sem_trace_2, ↓sem_trace_3, ↓sem_trace_4, ↓load_const,
        cc_iff, ea, and_imm, and_imm_left, ilog2_lit, or_eq_zero, or_mod32, or_lt_2p31,
        Nat.mod_mod, Nat.zero_or, Nat.or_zero, Nat.sub_zero, Nat.add_mod_right, lane_eq,
        Machine.io_eq_get, Nat.xor_self, Loc.x.injEq, Loc.g.injEq, Loc.m.injEq,
        Bool.toNat_eq_zero, Bool.toNat_eq_one, Nat.reducePow, Nat.reduceMul,
        Nat.reduceMod, Nat.reduceAdd, Nat.reduceSub, Nat.reduceDiv, Nat.reduceEqDiff,
        Nat.reduceLTLE, Nat.reduceLeDiff, Nat.reduceLT, Nat.reduceGT, Nat.reduceOr,
        Nat.reduceXor, reduceCtorEq, Bool.not_eq_true', Bool.not_eq_true,
        decide_eq_true_eq, decide_eq_false_iff_not, Bool.and_eq_true, Bool.or_eq_true,
        bne_iff_ne, beq_iff_eq, ne_eq, Bool.not_eq_false', Bool.not_eq_false, decide_not,
        not_not, Bool.decide_eq_true, Bool.false_eq_true, Bool.true_eq_false,
        not_false_eq_true, not_true_eq_false, and_true, true_and, and_false, false_and,
        or_true, true_or, or_false, false_or, not_true, not_false_iff, iff_self, true_iff,
        iff_true, false_iff, iff_false, ite_self, decide_eq_decide, decide_False,
        decide_True, Bool.not_true, Bool.not_false]
    all_goals omega
  · set_option maxRecDepth 8000 in
    simp only [
        ↓reduceIte, hx, ↓fast_pow.pow_L_2TAG_PACKET_7_0_2_1_sem,
        ↓fast_pow.pow_L_2TAG_PACKET_0_0_2_2_sem, ↓fast_pow.pow_L_2TAG_PACKET_0_0_2_1_sem,
        ↓fast_pow.pow_B1_2_1_sem, ↓fast_pow.pow_start_1_sem, ↓fast_pow.pow_entry_1_sem,
        ↓Machine.get_setx, ↓Machine.get_setg, ↓Machine.get_setstk, ↓Machine.get_enter,
        ↓Machine.get_setFlags, ↓Machine.trace_set, ↓Machine.get_ite, ↓Machine.trace_ite,
        ↓Machine.obs_eq_get, ↓Machine.flags_get, ↓Machine.flags_trace, ↓sem_get_1,
        ↓sem_get_2, ↓sem_get_3, ↓sem_get_4, ↓sem_trace_1, ↓sem_trace_2, ↓sem_trace_3,
        ↓sem_trace_4, ↓load_const, cc_iff, ea, and_imm, and_imm_left, ilog2_lit,
        or_eq_zero, or_mod32, or_lt_2p31, Nat.mod_mod, Nat.zero_or, Nat.or_zero,
        Nat.sub_zero, Nat.add_mod_right, lane_eq, Machine.io_eq_get, Nat.xor_self,
        Loc.x.injEq, Loc.g.injEq, Loc.m.injEq, Bool.toNat_eq_zero, Bool.toNat_eq_one,
        Nat.reducePow, Nat.reduceMul, Nat.reduceMod, Nat.reduceAdd, Nat.reduceSub,
        Nat.reduceDiv, Nat.reduceEqDiff, Nat.reduceLTLE, Nat.reduceLeDiff, Nat.reduceLT,
        Nat.reduceGT, Nat.reduceOr, Nat.reduceXor, reduceCtorEq, Bool.not_eq_true',
        Bool.not_eq_true, decide_eq_true_eq, decide_eq_false_iff_not, Bool.and_eq_true,
        Bool.or_eq_true, bne_iff_ne, beq_iff_eq, ne_eq, Bool.not_eq_false',
        Bool.not_eq_false, decide_not, not_not, Bool.decide_eq_true, Bool.false_eq_true,
        Bool.true_eq_false, not_false_eq_true, not_true_eq_false, and_true, true_and,
        and_false, false_and, or_true, true_or, or_false, false_or, not_true,
        not_false_iff, iff_self, true_iff, iff_true, false_iff, iff_false, ite_self,
        decide_eq_decide, decide_False, decide_True, Bool.not_true, Bool.not_false]
    all_goals omega
  · set_option maxRecDepth 8000 in
    simp only [
        ↓reduceIte, hx, ↓fast_pow.pow_L_2TAG_PACKET_0_0_2_2_sem,
        ↓fast_pow.pow_L_2TAG_PACKET_0_0_2_1_sem, ↓fast_pow.pow_B1_2_1_sem,
        ↓fast_pow.pow_start_1_sem, ↓fast_pow.pow_entry_1_sem, ↓Machine.get_setx,
        ↓Machine.get_setg, ↓Machine.get_setstk, ↓Machine.get_enter, ↓Machine.get_setFlags,
        ↓Machine.trace_set, ↓Machine.get_ite, ↓Machine.trace_ite, ↓Machine.obs_eq_get,
        ↓Machine.flags_get, ↓Machine.flags_trace, ↓sem_get_1, ↓sem_get_2, ↓sem_get_3,
        ↓sem_get_4, ↓sem_trace_1, ↓sem_trace_2, ↓sem_trace_3, ↓sem_trace_4, ↓load_const,
        cc_iff, ea, and_imm, and_imm_left, ilog2_lit, or_eq_zero, or_mod32, or_lt_2p31,
        Nat.mod_mod, Nat.zero_or, Nat.or_zero, Nat.sub_zero, Nat.add_mod_right, lane_eq,
        Machine.io_eq_get, Nat.xor_self, Loc.x.injEq, Loc.g.injEq, Loc.m.injEq,
        Bool.toNat_eq_zero, Bool.toNat_eq_one, Nat.reducePow, Nat.reduceMul,
        Nat.reduceMod, Nat.reduceAdd, Nat.reduceSub, Nat.reduceDiv, Nat.reduceEqDiff,
        Nat.reduceLTLE, Nat.reduceLeDiff, Nat.reduceLT, Nat.reduceGT, Nat.reduceOr,
        Nat.reduceXor, reduceCtorEq, Bool.not_eq_true', Bool.not_eq_true,
        decide_eq_true_eq, decide_eq_false_iff_not, Bool.and_eq_true, Bool.or_eq_true,
        bne_iff_ne, beq_iff_eq, ne_eq, Bool.not_eq_false', Bool.not_eq_false, decide_not,
        not_not, Bool.decide_eq_true, Bool.false_eq_true, Bool.true_eq_false,
        not_false_eq_true, not_true_eq_false, and_true, true_and, and_false, false_and,
        or_true, true_or, or_false, false_or, not_true, not_false_iff, iff_self, true_iff,
        iff_true, false_iff, iff_false, ite_self, decide_eq_decide, decide_False,
        decide_True, Bool.not_true, Bool.not_false]
    all_goals omega
  · set_option maxRecDepth 8000 in
    simp only [
        ↓reduceIte, hx, ↓fast_pow.pow_L_2TAG_PACKET_0_0_2_1_sem, ↓fast_pow.pow_B1_2_1_sem,
        ↓fast_pow.pow_start_1_sem, ↓fast_pow.pow_entry_1_sem, ↓Machine.get_setx,
        ↓Machine.get_setg, ↓Machine.get_setstk, ↓Machine.get_enter, ↓Machine.get_setFlags,
        ↓Machine.trace_set, ↓Machine.get_ite, ↓Machine.trace_ite, ↓Machine.obs_eq_get,
        ↓Machine.flags_get, ↓Machine.flags_trace, ↓sem_get_1, ↓sem_get_2, ↓sem_get_3,
        ↓sem_get_4, ↓sem_trace_1, ↓sem_trace_2, ↓sem_trace_3, ↓sem_trace_4, ↓load_const,
        cc_iff, ea, and_imm, and_imm_left, ilog2_lit, or_eq_zero, or_mod32, or_lt_2p31,
        Nat.mod_mod, Nat.zero_or, Nat.or_zero, Nat.sub_zero, Nat.add_mod_right, lane_eq,
        Machine.io_eq_get, Nat.xor_self, Loc.x.injEq, Loc.g.injEq, Loc.m.injEq,
        Bool.toNat_eq_zero, Bool.toNat_eq_one, Nat.reducePow, Nat.reduceMul,
        Nat.reduceMod, Nat.reduceAdd, Nat.reduceSub, Nat.reduceDiv, Nat.reduceEqDiff,
        Nat.reduceLTLE, Nat.reduceLeDiff, Nat.reduceLT, Nat.reduceGT, Nat.reduceOr,
        Nat.reduceXor, reduceCtorEq, Bool.not_eq_true', Bool.not_eq_true,
        decide_eq_true_eq, decide_eq_false_iff_not, Bool.and_eq_true, Bool.or_eq_true,
        bne_iff_ne, beq_iff_eq, ne_eq, Bool.not_eq_false', Bool.not_eq_false, decide_not,
        not_not, Bool.decide_eq_true, Bool.false_eq_true, Bool.true_eq_false,
        not_false_eq_true, not_true_eq_false, and_true, true_and, and_false, false_and,
        or_true, true_or, or_false, false_or, not_true, not_false_iff, iff_self, true_iff,
        iff_true, false_iff, iff_false, ite_self, decide_eq_decide, decide_False,
        decide_True, Bool.not_true, Bool.not_false]
    all_goals omega
  · set_option maxRecDepth 8000 in
    simp only [
        ↓reduceIte, hx, ↓fast_pow.pow_B1_2_1_sem, ↓fast_pow.pow_start_1_sem,
        ↓fast_pow.pow_entry_1_sem, ↓Machine.get_setx, ↓Machine.get_setg,
        ↓Machine.get_setstk, ↓Machine.get_enter, ↓Machine.get_setFlags,
        ↓Machine.trace_set, ↓Machine.get_ite, ↓Machine.trace_ite, ↓Machine.obs_eq_get,
        ↓Machine.flags_get, ↓Machine.flags_trace, ↓sem_get_1, ↓sem_get_2, ↓sem_get_3,
        ↓sem_get_4, ↓sem_trace_1, ↓sem_trace_2, ↓sem_trace_3, ↓sem_trace_4, ↓load_const,
        cc_iff, ea, and_imm, and_imm_left, ilog2_lit, or_eq_zero, or_mod32, or_lt_2p31,
        Nat.mod_mod, Nat.zero_or, Nat.or_zero, Nat.sub_zero, Nat.add_mod_right, lane_eq,
        Machine.io_eq_get, Nat.xor_self, Loc.x.injEq, Loc.g.injEq, Loc.m.injEq,
        Bool.toNat_eq_zero, Bool.toNat_eq_one, Nat.reducePow, Nat.reduceMul,
        Nat.reduceMod, Nat.reduceAdd, Nat.reduceSub, Nat.reduceDiv, Nat.reduceEqDiff,
        Nat.reduceLTLE, Nat.reduceLeDiff, Nat.reduceLT, Nat.reduceGT, Nat.reduceOr,
        Nat.reduceXor, reduceCtorEq, Bool.not_eq_true', Bool.not_eq_true,
        decide_eq_true_eq, decide_eq_false_iff_not, Bool.and_eq_true, Bool.or_eq_true,
        bne_iff_ne, beq_iff_eq, ne_eq, Bool.not_eq_false', Bool.not_eq_false, decide_not,
        not_not, Bool.decide_eq_true, Bool.false_eq_true, Bool.true_eq_false,
        not_false_eq_true, not_true_eq_false, and_true, true_and, and_false, false_and,
        or_true, true_or, or_false, false_or, not_true, not_false_iff, iff_self, true_iff,
        iff_true, false_iff, iff_false, ite_self, decide_eq_decide, decide_False,
        decide_True, Bool.not_true, Bool.not_false]
    all_goals omega

theorem fast_pow_neg_inf_grow_run (cpu : Cpu) (s : Machine)
    (h1 : 0x8000000000000000 < s.arg0) (h2 : s.arg0 < 0xFFF0000000000000)
    (h3 : s.arg0 / 2 ^ 48 ≠ 49136)
    (hy : s.arg1 = 0x7FF0000000000000 ∨ s.arg1 = 0xFFF0000000000000)
    (hxy : 0xBFF0000000000000 < s.arg0 ↔ s.arg1 = 0x7FF0000000000000) :
    (fast_pow cpu s).result = 0x7FF0000000000000 := by
  simp only [Machine.io_eq_get, Nat.reducePow] at h1 h2 h3 hy hxy
  rw [
      fast_pow, fast_pow.pow_entry_eq, fast_pow.pow_start_eq, fast_pow.pow_B1_2_eq, if_pos,
      fast_pow.pow_L_2TAG_PACKET_0_0_2_eq, if_neg, if_pos,
      fast_pow.pow_L_2TAG_PACKET_7_0_2_eq, if_neg, if_neg, if_pos,
      fast_pow.pow_L_2TAG_PACKET_28_0_2_eq, if_pos, fast_pow.pow_L_2TAG_PACKET_29_0_2_eq,
      if_pos, fast_pow.pow_L_2TAG_PACKET_30_0_2_eq, if_pos,
      fast_pow.pow_L_2TAG_PACKET_31_0_2_eq, fast_pow.pow_B1_5_eq]
  · set_option maxRecDepth 8000 in
    simp only [
        ↓reduceIte, xor_bit15, ↓fast_pow.pow_B1_5_1_sem,
        ↓fast_pow.pow_L_2TAG_PACKET_31_0_2_1_sem,
        ↓fast_pow.pow_L_2TAG_PACKET_30_0_2_1_sem,
        ↓fast_pow.pow_L_2TAG_PACKET_29_0_2_1_sem,
        ↓fast_pow.pow_L_2TAG_PACKET_28_0_2_1_sem, ↓fast_pow.pow_L_2TAG_PACKET_7_0_2_3_sem,
        ↓fast_pow.pow_L_2TAG_PACKET_7_0_2_2_sem, ↓fast_pow.pow_L_2TAG_PACKET_7_0_2_1_sem,
        ↓fast_pow.pow_L_2TAG_PACKET_0_0_2_2_sem, ↓fast_pow.pow_L_2TAG_PACKET_0_0_2_1_sem,
        ↓fast_pow.pow_B1_2_1_sem, ↓fast_pow.pow_start_1_sem, ↓fast_pow.pow_entry_1_sem,
        ↓Machine.get_setx, ↓Machine.get_setg, ↓Machine.get_setstk, ↓Machine.get_enter,
        ↓Machine.get_setFlags, ↓Machine.trace_set, ↓Machine.get_ite, ↓Machine.trace_ite,
        ↓Machine.obs_eq_get, ↓Machine.flags_get, ↓Machine.flags_trace, ↓sem_get_1,
        ↓sem_get_2, ↓sem_get_3, ↓sem_get_4, ↓sem_trace_1, ↓sem_trace_2, ↓sem_trace_3,
        ↓sem_trace_4, ↓load_const, cc_iff, ea, and_imm, and_imm_left, ilog2_lit,
        or_eq_zero, or_mod32, or_lt_2p31, Nat.mod_mod, Nat.zero_or, Nat.or_zero,
        Nat.sub_zero, Nat.add_mod_right, lane_eq, Machine.io_eq_get, Nat.xor_self,
        Loc.x.injEq, Loc.g.injEq, Loc.m.injEq, Bool.toNat_eq_zero, Bool.toNat_eq_one,
        Nat.reducePow, Nat.reduceMul, Nat.reduceMod, Nat.reduceAdd, Nat.reduceSub,
        Nat.reduceDiv, Nat.reduceEqDiff, Nat.reduceLTLE, Nat.reduceLeDiff, Nat.reduceLT,
        Nat.reduceGT, Nat.reduceOr, Nat.reduceXor, reduceCtorEq, Bool.not_eq_true',
        Bool.not_eq_true, decide_eq_true_eq, decide_eq_false_iff_not, Bool.and_eq_true,
        Bool.or_eq_true, bne_iff_ne, beq_iff_eq, ne_eq, Bool.not_eq_false',
        Bool.not_eq_false, decide_not, not_not, Bool.decide_eq_true, Bool.false_eq_true,
        Bool.true_eq_false, not_false_eq_true, not_true_eq_false, and_true, true_and,
        and_false, false_and, or_true, true_or, or_false, false_or, not_true,
        not_false_iff, iff_self, true_iff, iff_true, false_iff, iff_false, ite_self,
        decide_eq_decide, decide_False, decide_True, Bool.not_true, Bool.not_false]
  · set_option maxRecDepth 8000 in
    simp only [
        ↓reduceIte, xor_bit15, ↓fast_pow.pow_L_2TAG_PACKET_30_0_2_1_sem,
        ↓fast_pow.pow_L_2TAG_PACKET_29_0_2_1_sem,
        ↓fast_pow.pow_L_2TAG_PACKET_28_0_2_1_sem, ↓fast_pow.pow_L_2TAG_PACKET_7_0_2_3_sem,
        ↓fast_pow.pow_L_2TAG_PACKET_7_0_2_2_sem, ↓fast_pow.pow_L_2TAG_PACKET_7_0_2_1_sem,
        ↓fast_pow.pow_L_2TAG_PACKET_0_0_2_2_sem, ↓fast_pow.pow_L_2TAG_PACKET_0_0_2_1_sem,
        ↓fast_pow.pow_B1_2_1_sem, ↓fast_pow.pow_start_1_sem, ↓fast_pow.pow_entry_1_sem,
        ↓Machine.get_setx, ↓Machine.get_setg, ↓Machine.get_setstk, ↓Machine.get_enter,
        ↓Machine.get_setFlags, ↓Machine.trace_set, ↓Machine.get_ite, ↓Machine.trace_ite,
        ↓Machine.obs_eq_get, ↓Machine.flags_get, ↓Machine.flags_trace, ↓sem_get_1,
        ↓sem_get_2, ↓sem_get_3, ↓sem_get_4, ↓sem_trace_1, ↓sem_trace_2, ↓sem_trace_3,
        ↓sem_trace_4, ↓load_const, cc_iff, ea, and_imm, and_imm_left, ilog2_lit,
        or_eq_zero, or_mod32, or_lt_2p31, Nat.mod_mod, Nat.zero_or, Nat.or_zero,
        Nat.sub_zero, Nat.add_mod_right, lane_eq, Machine.io_eq_get, Nat.xor_self,
        Loc.x.injEq, Loc.g.injEq, Loc.m.injEq, Bool.toNat_eq_zero, Bool.toNat_eq_one,
        Nat.reducePow, Nat.reduceMul, Nat.reduceMod, Nat.reduceAdd, Nat.reduceSub,
        Nat.reduceDiv, Nat.reduceEqDiff, Nat.reduceLTLE, Nat.reduceLeDiff, Nat.reduceLT,
        Nat.reduceGT, Nat.reduceOr, Nat.reduceXor, reduceCtorEq, Bool.not_eq_true',
        Bool.not_eq_true, decide_eq_true_eq, decide_eq_false_iff_not, Bool.and_eq_true,
        Bool.or_eq_true, bne_iff_ne, beq_iff_eq, ne_eq, Bool.not_eq_false',
        Bool.not_eq_false, decide_not, not_not, Bool.decide_eq_true, Bool.false_eq_true,
        Bool.true_eq_false, not_false_eq_true, not_true_eq_false, and_true, true_and,
        and_false, false_and, or_true, true_or, or_false, false_or, not_true,
        not_false_iff, iff_self, true_iff, iff_true, false_iff, iff_false, ite_self,
        decide_eq_decide, decide_False, decide_True, Bool.not_true, Bool.not_false]
    all_goals omega
  · set_option maxRecDepth 8000 in
    simp only [
        ↓reduceIte, xor_bit15, ↓fast_pow.pow_L_2TAG_PACKET_29_0_2_1_sem,
        ↓fast_pow.pow_L_2TAG_PACKET_28_0_2_1_sem, ↓fast_pow.pow_L_2TAG_PACKET_7_0_2_3_sem,
        ↓fast_pow.pow_L_2TAG_PACKET_7_0_2_2_sem, ↓fast_pow.pow_L_2TAG_PACKET_7_0_2_1_sem,
        ↓fast_pow.pow_L_2TAG_PACKET_0_0_2_2_sem, ↓fast_pow.pow_L_2TAG_PACKET_0_0_2_1_sem,
        ↓fast_pow.pow_B1_2_1_sem, ↓fast_pow.pow_start_1_sem, ↓fast_pow.pow_entry_1_sem,
        ↓Machine.get_setx, ↓Machine.get_setg, ↓Machine.get_setstk, ↓Machine.get_enter,
        ↓Machine.get_setFlags, ↓Machine.trace_set, ↓Machine.get_ite, ↓Machine.trace_ite,
        ↓Machine.obs_eq_get, ↓Machine.flags_get, ↓Machine.flags_trace, ↓sem_get_1,
        ↓sem_get_2, ↓sem_get_3, ↓sem_get_4, ↓sem_trace_1, ↓sem_trace_2, ↓sem_trace_3,
        ↓sem_trace_4, ↓load_const, cc_iff, ea, and_imm, and_imm_left, ilog2_lit,
        or_eq_zero, or_mod32, or_lt_2p31, Nat.mod_mod, Nat.zero_or, Nat.or_zero,
        Nat.sub_zero, Nat.add_mod_right, lane_eq, Machine.io_eq_get, Nat.xor_self,
        Loc.x.injEq, Loc.g.injEq, Loc.m.injEq, Bool.toNat_eq_zero, Bool.toNat_eq_one,
        Nat.reducePow, Nat.reduceMul, Nat.reduceMod, Nat.reduceAdd, Nat.reduceSub,
        Nat.reduceDiv, Nat.reduceEqDiff, Nat.reduceLTLE, Nat.reduceLeDiff, Nat.reduceLT,
        Nat.reduceGT, Nat.reduceOr, Nat.reduceXor, reduceCtorEq, Bool.not_eq_true',
        Bool.not_eq_true, decide_eq_true_eq, decide_eq_false_iff_not, Bool.and_eq_true,
        Bool.or_eq_true, bne_iff_ne, beq_iff_eq, ne_eq, Bool.not_eq_false',
        Bool.not_eq_false, decide_not, not_not, Bool.decide_eq_true, Bool.false_eq_true,
        Bool.true_eq_false, not_false_eq_true, not_true_eq_false, and_true, true_and,
        and_false, false_and, or_true, true_or, or_false, false_or, not_true,
        not_false_iff, iff_self, true_iff, iff_true, false_iff, iff_false, ite_self,
        decide_eq_decide, decide_False, decide_True, Bool.not_true, Bool.not_false]
    all_goals omega
  · set_option maxRecDepth 8000 in
    simp only [
        ↓reduceIte, xor_bit15, ↓fast_pow.pow_L_2TAG_PACKET_28_0_2_1_sem,
        ↓fast_pow.pow_L_2TAG_PACKET_7_0_2_3_sem, ↓fast_pow.pow_L_2TAG_PACKET_7_0_2_2_sem,
        ↓fast_pow.pow_L_2TAG_PACKET_7_0_2_1_sem, ↓fast_pow.pow_L_2TAG_PACKET_0_0_2_2_sem,
        ↓fast_pow.pow_L_2TAG_PACKET_0_0_2_1_sem, ↓fast_pow.pow_B1_2_1_sem,
        ↓fast_pow.pow_start_1_sem, ↓fast_pow.pow_entry_1_sem, ↓Machine.get_setx,
        ↓Machine.get_setg, ↓Machine.get_setstk, ↓Machine.get_enter, ↓Machine.get_setFlags,
        ↓Machine.trace_set, ↓Machine.get_ite, ↓Machine.trace_ite, ↓Machine.obs_eq_get,
        ↓Machine.flags_get, ↓Machine.flags_trace, ↓sem_get_1, ↓sem_get_2, ↓sem_get_3,
        ↓sem_get_4, ↓sem_trace_1, ↓sem_trace_2, ↓sem_trace_3, ↓sem_trace_4, ↓load_const,
        cc_iff, ea, and_imm, and_imm_left, ilog2_lit, or_eq_zero, or_mod32, or_lt_2p31,
        Nat.mod_mod, Nat.zero_or, Nat.or_zero, Nat.sub_zero, Nat.add_mod_right, lane_eq,
        Machine.io_eq_get, Nat.xor_self, Loc.x.injEq, Loc.g.injEq, Loc.m.injEq,
        Bool.toNat_eq_zero, Bool.toNat_eq_one, Nat.reducePow, Nat.reduceMul,
        Nat.reduceMod, Nat.reduceAdd, Nat.reduceSub, Nat.reduceDiv, Nat.reduceEqDiff,
        Nat.reduceLTLE, Nat.reduceLeDiff, Nat.reduceLT, Nat.reduceGT, Nat.reduceOr,
        Nat.reduceXor, reduceCtorEq, Bool.not_eq_true', Bool.not_eq_true,
        decide_eq_true_eq, decide_eq_false_iff_not, Bool.and_eq_true, Bool.or_eq_true,
        bne_iff_ne, beq_iff_eq, ne_eq, Bool.not_eq_false', Bool.not_eq_false, decide_not,
        not_not, Bool.decide_eq_true, Bool.false_eq_true, Bool.true_eq_false,
        not_false_eq_true, not_true_eq_false, and_true, true_and, and_false, false_and,
        or_true, true_or, or_false, false_or, not_true, not_false_iff, iff_self, true_iff,
        iff_true, false_iff, iff_false, ite_self, decide_eq_decide, decide_False,
        decide_True, Bool.not_true, Bool.not_false]
    all_goals omega
  · set_option maxRecDepth 8000 in
    simp only [
        ↓reduceIte, xor_bit15, ↓fast_pow.pow_L_2TAG_PACKET_7_0_2_3_sem,
        ↓fast_pow.pow_L_2TAG_PACKET_7_0_2_2_sem, ↓fast_pow.pow_L_2TAG_PACKET_7_0_2_1_sem,
        ↓fast_pow.pow_L_2TAG_PACKET_0_0_2_2_sem, ↓fast_pow.pow_L_2TAG_PACKET_0_0_2_1_sem,
        ↓fast_pow.pow_B1_2_1_sem, ↓fast_pow.pow_start_1_sem, ↓fast_pow.pow_entry_1_sem,
        ↓Machine.get_setx, ↓Machine.get_setg, ↓Machine.get_setstk, ↓Machine.get_enter,
        ↓Machine.get_setFlags, ↓Machine.trace_set, ↓Machine.get_ite, ↓Machine.trace_ite,
        ↓Machine.obs_eq_get, ↓Machine.flags_get, ↓Machine.flags_trace, ↓sem_get_1,
        ↓sem_get_2, ↓sem_get_3, ↓sem_get_4, ↓sem_trace_1, ↓sem_trace_2, ↓sem_trace_3,
        ↓sem_trace_4, ↓load_const, cc_iff, ea, and_imm, and_imm_left, ilog2_lit,
        or_eq_zero, or_mod32, or_lt_2p31, Nat.mod_mod, Nat.zero_or, Nat.or_zero,
        Nat.sub_zero, Nat.add_mod_right, lane_eq, Machine.io_eq_get, Nat.xor_self,
        Loc.x.injEq, Loc.g.injEq, Loc.m.injEq, Bool.toNat_eq_zero, Bool.toNat_eq_one,
        Nat.reducePow, Nat.reduceMul, Nat.reduceMod, Nat.reduceAdd, Nat.reduceSub,
        Nat.reduceDiv, Nat.reduceEqDiff, Nat.reduceLTLE, Nat.reduceLeDiff, Nat.reduceLT,
        Nat.reduceGT, Nat.reduceOr, Nat.reduceXor, reduceCtorEq, Bool.not_eq_true',
        Bool.not_eq_true, decide_eq_true_eq, decide_eq_false_iff_not, Bool.and_eq_true,
        Bool.or_eq_true, bne_iff_ne, beq_iff_eq, ne_eq, Bool.not_eq_false',
        Bool.not_eq_false, decide_not, not_not, Bool.decide_eq_true, Bool.false_eq_true,
        Bool.true_eq_false, not_false_eq_true, not_true_eq_false, and_true, true_and,
        and_false, false_and, or_true, true_or, or_false, false_or, not_true,
        not_false_iff, iff_self, true_iff, iff_true, false_iff, iff_false, ite_self,
        decide_eq_decide, decide_False, decide_True, Bool.not_true, Bool.not_false]
    all_goals omega
  · set_option maxRecDepth 8000 in
    simp only [
        ↓reduceIte, xor_bit15, ↓fast_pow.pow_L_2TAG_PACKET_7_0_2_2_sem,
        ↓fast_pow.pow_L_2TAG_PACKET_7_0_2_1_sem, ↓fast_pow.pow_L_2TAG_PACKET_0_0_2_2_sem,
        ↓fast_pow.pow_L_2TAG_PACKET_0_0_2_1_sem, ↓fast_pow.pow_B1_2_1_sem,
        ↓fast_pow.pow_start_1_sem, ↓fast_pow.pow_entry_1_sem, ↓Machine.get_setx,
        ↓Machine.get_setg, ↓Machine.get_setstk, ↓Machine.get_enter, ↓Machine.get_setFlags,
        ↓Machine.trace_set, ↓Machine.get_ite, ↓Machine.trace_ite, ↓Machine.obs_eq_get,
        ↓Machine.flags_get, ↓Machine.flags_trace, ↓sem_get_1, ↓sem_get_2, ↓sem_get_3,
        ↓sem_get_4, ↓sem_trace_1, ↓sem_trace_2, ↓sem_trace_3, ↓sem_trace_4, ↓load_const,
        cc_iff, ea, and_imm, and_imm_left, ilog2_lit, or_eq_zero, or_mod32, or_lt_2p31,
        Nat.mod_mod, Nat.zero_or, Nat.or_zero, Nat.sub_zero, Nat.add_mod_right, lane_eq,
        Machine.io_eq_get, Nat.xor_self, Loc.x.injEq, Loc.g.injEq, Loc.m.injEq,
        Bool.toNat_eq_zero, Bool.toNat_eq_one, Nat.reducePow, Nat.reduceMul,
        Nat.reduceMod, Nat.reduceAdd, Nat.reduceSub, Nat.reduceDiv, Nat.reduceEqDiff,
        Nat.reduceLTLE, Nat.reduceLeDiff, Nat.reduceLT, Nat.reduceGT, Nat.reduceOr,
        Nat.reduceXor, reduceCtorEq, Bool.not_eq_true', Bool.not_eq_true,
        decide_eq_true_eq, decide_eq_false_iff_not, Bool.and_eq_true, Bool.or_eq_true,
        bne_iff_ne, beq_iff_eq, ne_eq, Bool.not_eq_false', Bool.not_eq_false, decide_not,
        not_not, Bool.decide_eq_true, Bool.false_eq_true, Bool.true_eq_false,
        not_false_eq_true, not_true_eq_false, and_true, true_and, and_false, false_and,
        or_true, true_or, or_false, false_or, not_true, not_false_iff, iff_self, true_iff,
        iff_true, false_iff, iff_false, ite_self, decide_eq_decide, decide_False,
        decide_True, Bool.not_true, Bool.not_false]
    all_goals omega
  · set_option maxRecDepth 8000 in
    simp only [
        ↓reduceIte, xor_bit15, ↓fast_pow.pow_L_2TAG_PACKET_7_0_2_1_sem,
        ↓fast_pow.pow_L_2TAG_PACKET_0_0_2_2_sem, ↓fast_pow.pow_L_2TAG_PACKET_0_0_2_1_sem,
        ↓fast_pow.pow_B1_2_1_sem, ↓fast_pow.pow_start_1_sem, ↓fast_pow.pow_entry_1_sem,
        ↓Machine.get_setx, ↓Machine.get_setg, ↓Machine.get_setstk, ↓Machine.get_enter,
        ↓Machine.get_setFlags, ↓Machine.trace_set, ↓Machine.get_ite, ↓Machine.trace_ite,
        ↓Machine.obs_eq_get, ↓Machine.flags_get, ↓Machine.flags_trace, ↓sem_get_1,
        ↓sem_get_2, ↓sem_get_3, ↓sem_get_4, ↓sem_trace_1, ↓sem_trace_2, ↓sem_trace_3,
        ↓sem_trace_4, ↓load_const, cc_iff, ea, and_imm, and_imm_left, ilog2_lit,
        or_eq_zero, or_mod32, or_lt_2p31, Nat.mod_mod, Nat.zero_or, Nat.or_zero,
        Nat.sub_zero, Nat.add_mod_right, lane_eq, Machine.io_eq_get, Nat.xor_self,
        Loc.x.injEq, Loc.g.injEq, Loc.m.injEq, Bool.toNat_eq_zero, Bool.toNat_eq_one,
        Nat.reducePow, Nat.reduceMul, Nat.reduceMod, Nat.reduceAdd, Nat.reduceSub,
        Nat.reduceDiv, Nat.reduceEqDiff, Nat.reduceLTLE, Nat.reduceLeDiff, Nat.reduceLT,
        Nat.reduceGT, Nat.reduceOr, Nat.reduceXor, reduceCtorEq, Bool.not_eq_true',
        Bool.not_eq_true, decide_eq_true_eq, decide_eq_false_iff_not, Bool.and_eq_true,
        Bool.or_eq_true, bne_iff_ne, beq_iff_eq, ne_eq, Bool.not_eq_false',
        Bool.not_eq_false, decide_not, not_not, Bool.decide_eq_true, Bool.false_eq_true,
        Bool.true_eq_false, not_false_eq_true, not_true_eq_false, and_true, true_and,
        and_false, false_and, or_true, true_or, or_false, false_or, not_true,
        not_false_iff, iff_self, true_iff, iff_true, false_iff, iff_false, ite_self,
        decide_eq_decide, decide_False, decide_True, Bool.not_true, Bool.not_false]
    all_goals omega
  · set_option maxRecDepth 8000 in
    simp only [
        ↓reduceIte, xor_bit15, ↓fast_pow.pow_L_2TAG_PACKET_0_0_2_2_sem,
        ↓fast_pow.pow_L_2TAG_PACKET_0_0_2_1_sem, ↓fast_pow.pow_B1_2_1_sem,
        ↓fast_pow.pow_start_1_sem, ↓fast_pow.pow_entry_1_sem, ↓Machine.get_setx,
        ↓Machine.get_setg, ↓Machine.get_setstk, ↓Machine.get_enter, ↓Machine.get_setFlags,
        ↓Machine.trace_set, ↓Machine.get_ite, ↓Machine.trace_ite, ↓Machine.obs_eq_get,
        ↓Machine.flags_get, ↓Machine.flags_trace, ↓sem_get_1, ↓sem_get_2, ↓sem_get_3,
        ↓sem_get_4, ↓sem_trace_1, ↓sem_trace_2, ↓sem_trace_3, ↓sem_trace_4, ↓load_const,
        cc_iff, ea, and_imm, and_imm_left, ilog2_lit, or_eq_zero, or_mod32, or_lt_2p31,
        Nat.mod_mod, Nat.zero_or, Nat.or_zero, Nat.sub_zero, Nat.add_mod_right, lane_eq,
        Machine.io_eq_get, Nat.xor_self, Loc.x.injEq, Loc.g.injEq, Loc.m.injEq,
        Bool.toNat_eq_zero, Bool.toNat_eq_one, Nat.reducePow, Nat.reduceMul,
        Nat.reduceMod, Nat.reduceAdd, Nat.reduceSub, Nat.reduceDiv, Nat.reduceEqDiff,
        Nat.reduceLTLE, Nat.reduceLeDiff, Nat.reduceLT, Nat.reduceGT, Nat.reduceOr,
        Nat.reduceXor, reduceCtorEq, Bool.not_eq_true', Bool.not_eq_true,
        decide_eq_true_eq, decide_eq_false_iff_not, Bool.and_eq_true, Bool.or_eq_true,
        bne_iff_ne, beq_iff_eq, ne_eq, Bool.not_eq_false', Bool.not_eq_false, decide_not,
        not_not, Bool.decide_eq_true, Bool.false_eq_true, Bool.true_eq_false,
        not_false_eq_true, not_true_eq_false, and_true, true_and, and_false, false_and,
        or_true, true_or, or_false, false_or, not_true, not_false_iff, iff_self, true_iff,
        iff_true, false_iff, iff_false, ite_self, decide_eq_decide, decide_False,
        decide_True, Bool.not_true, Bool.not_false]
    all_goals omega
  · set_option maxRecDepth 8000 in
    simp only [
        ↓reduceIte, xor_bit15, ↓fast_pow.pow_L_2TAG_PACKET_0_0_2_1_sem,
        ↓fast_pow.pow_B1_2_1_sem, ↓fast_pow.pow_start_1_sem, ↓fast_pow.pow_entry_1_sem,
        ↓Machine.get_setx, ↓Machine.get_setg, ↓Machine.get_setstk, ↓Machine.get_enter,
        ↓Machine.get_setFlags, ↓Machine.trace_set, ↓Machine.get_ite, ↓Machine.trace_ite,
        ↓Machine.obs_eq_get, ↓Machine.flags_get, ↓Machine.flags_trace, ↓sem_get_1,
        ↓sem_get_2, ↓sem_get_3, ↓sem_get_4, ↓sem_trace_1, ↓sem_trace_2, ↓sem_trace_3,
        ↓sem_trace_4, ↓load_const, cc_iff, ea, and_imm, and_imm_left, ilog2_lit,
        or_eq_zero, or_mod32, or_lt_2p31, Nat.mod_mod, Nat.zero_or, Nat.or_zero,
        Nat.sub_zero, Nat.add_mod_right, lane_eq, Machine.io_eq_get, Nat.xor_self,
        Loc.x.injEq, Loc.g.injEq, Loc.m.injEq, Bool.toNat_eq_zero, Bool.toNat_eq_one,
        Nat.reducePow, Nat.reduceMul, Nat.reduceMod, Nat.reduceAdd, Nat.reduceSub,
        Nat.reduceDiv, Nat.reduceEqDiff, Nat.reduceLTLE, Nat.reduceLeDiff, Nat.reduceLT,
        Nat.reduceGT, Nat.reduceOr, Nat.reduceXor, reduceCtorEq, Bool.not_eq_true',
        Bool.not_eq_true, decide_eq_true_eq, decide_eq_false_iff_not, Bool.and_eq_true,
        Bool.or_eq_true, bne_iff_ne, beq_iff_eq, ne_eq, Bool.not_eq_false',
        Bool.not_eq_false, decide_not, not_not, Bool.decide_eq_true, Bool.false_eq_true,
        Bool.true_eq_false, not_false_eq_true, not_true_eq_false, and_true, true_and,
        and_false, false_and, or_true, true_or, or_false, false_or, not_true,
        not_false_iff, iff_self, true_iff, iff_true, false_iff, iff_false, ite_self,
        decide_eq_decide, decide_False, decide_True, Bool.not_true, Bool.not_false]
    all_goals omega
  · set_option maxRecDepth 8000 in
    simp only [
        ↓reduceIte, xor_bit15, ↓fast_pow.pow_B1_2_1_sem, ↓fast_pow.pow_start_1_sem,
        ↓fast_pow.pow_entry_1_sem, ↓Machine.get_setx, ↓Machine.get_setg,
        ↓Machine.get_setstk, ↓Machine.get_enter, ↓Machine.get_setFlags,
        ↓Machine.trace_set, ↓Machine.get_ite, ↓Machine.trace_ite, ↓Machine.obs_eq_get,
        ↓Machine.flags_get, ↓Machine.flags_trace, ↓sem_get_1, ↓sem_get_2, ↓sem_get_3,
        ↓sem_get_4, ↓sem_trace_1, ↓sem_trace_2, ↓sem_trace_3, ↓sem_trace_4, ↓load_const,
        cc_iff, ea, and_imm, and_imm_left, ilog2_lit, or_eq_zero, or_mod32, or_lt_2p31,
        Nat.mod_mod, Nat.zero_or, Nat.or_zero, Nat.sub_zero, Nat.add_mod_right, lane_eq,
        Machine.io_eq_get, Nat.xor_self, Loc.x.injEq, Loc.g.injEq, Loc.m.injEq,
        Bool.toNat_eq_zero, Bool.toNat_eq_one, Nat.reducePow, Nat.reduceMul,
        Nat.reduceMod, Nat.reduceAdd, Nat.reduceSub, Nat.reduceDiv, Nat.reduceEqDiff,
        Nat.reduceLTLE, Nat.reduceLeDiff, Nat.reduceLT, Nat.reduceGT, Nat.reduceOr,
        Nat.reduceXor, reduceCtorEq, Bool.not_eq_true', Bool.not_eq_true,
        decide_eq_true_eq, decide_eq_false_iff_not, Bool.and_eq_true, Bool.or_eq_true,
        bne_iff_ne, beq_iff_eq, ne_eq, Bool.not_eq_false', Bool.not_eq_false, decide_not,
        not_not, Bool.decide_eq_true, Bool.false_eq_true, Bool.true_eq_false,
        not_false_eq_true, not_true_eq_false, and_true, true_and, and_false, false_and,
        or_true, true_or, or_false, false_or, not_true, not_false_iff, iff_self, true_iff,
        iff_true, false_iff, iff_false, ite_self, decide_eq_decide, decide_False,
        decide_True, Bool.not_true, Bool.not_false]
    all_goals omega

theorem fast_pow_neg_inf_decay_run (cpu : Cpu) (s : Machine)
    (h1 : 0x8000000000000000 < s.arg0) (h2 : s.arg0 < 0xFFF0000000000000)
    (h3 : s.arg0 / 2 ^ 48 ≠ 49136)
    (hy : s.arg1 = 0x7FF0000000000000 ∨ s.arg1 = 0xFFF0000000000000)
    (hxy : 0xBFF0000000000000 < s.arg0 ↔ s.arg1 = 0xFFF0000000000000) :
    (fast_pow cpu s).result = 0 := by
  simp only [Machine.io_eq_get, Nat.reducePow] at h1 h2 h3 hy hxy
  rw [
      fast_pow, fast_pow.pow_entry_eq, fast_pow.pow_start_eq, fast_pow.pow_B1_2_eq, if_pos,
      fast_pow.pow_L_2TAG_PACKET_0_0_2_eq, if_neg, if_pos,
      fast_pow.pow_L_2TAG_PACKET_7_0_2_eq, if_neg, if_neg, if_pos,
      fast_pow.pow_L_2TAG_PACKET_28_0_2_eq, if_pos, fast_pow.pow_L_2TAG_PACKET_29_0_2_eq,
      if_pos, fast_pow.pow_L_2TAG_PACKET_30_0_2_eq, if_neg, fast_pow.pow_B1_5_eq]
  · set_option maxRecDepth 8000 in
    simp only [
        ↓reduceIte, xor_bit15, ↓fast_pow.pow_B1_5_1_sem,
        ↓fast_pow.pow_L_2TAG_PACKET_30_0_2_2_sem,
        ↓fast_pow.pow_L_2TAG_PACKET_30_0_2_1_sem,
        ↓fast_pow.pow_L_2TAG_PACKET_29_0_2_1_sem,
        ↓fast_pow.pow_L_2TAG_PACKET_28_0_2_1_sem, ↓fast_pow.pow_L_2TAG_PACKET_7_0_2_3_sem,
        ↓fast_pow.pow_L_2TAG_PACKET_7_0_2_2_sem, ↓fast_pow.pow_L_2TAG_PACKET_7_0_2_1_sem,
        ↓fast_pow.pow_L_2TAG_PACKET_0_0_2_2_sem, ↓fast_pow.pow_L_2TAG_PACKET_0_0_2_1_sem,
        ↓fast_pow.pow_B1_2_1_sem, ↓fast_pow.pow_start_1_sem, ↓fast_pow.pow_entry_1_sem,
        ↓Machine.get_setx, ↓Machine.get_setg, ↓Machine.get_setstk, ↓Machine.get_enter,
        ↓Machine.get_setFlags, ↓Machine.trace_set, ↓Machine.get_ite, ↓Machine.trace_ite,
        ↓Machine.obs_eq_get, ↓Machine.flags_get, ↓Machine.flags_trace, ↓sem_get_1,
        ↓sem_get_2, ↓sem_get_3, ↓sem_get_4, ↓sem_trace_1, ↓sem_trace_2, ↓sem_trace_3,
        ↓sem_trace_4, ↓load_const, cc_iff, ea, and_imm, and_imm_left, ilog2_lit,
        or_eq_zero, or_mod32, or_lt_2p31, Nat.mod_mod, Nat.zero_or, Nat.or_zero,
        Nat.sub_zero, Nat.add_mod_right, lane_eq, Machine.io_eq_get, Nat.xor_self,
        Loc.x.injEq, Loc.g.injEq, Loc.m.injEq, Bool.toNat_eq_zero, Bool.toNat_eq_one,
        Nat.reducePow, Nat.reduceMul, Nat.reduceMod, Nat.reduceAdd, Nat.reduceSub,
        Nat.reduceDiv, Nat.reduceEqDiff, Nat.reduceLTLE, Nat.reduceLeDiff, Nat.reduceLT,
        Nat.reduceGT, Nat.reduceOr, Nat.reduceXor, reduceCtorEq, Bool.not_eq_true',
        Bool.not_eq_true, decide_eq_true_eq, decide_eq_false_iff_not, Bool.and_eq_true,
        Bool.or_eq_true, bne_iff_ne, beq_iff_eq, ne_eq, Bool.not_eq_false',
        Bool.not_eq_false, decide_not, not_not, Bool.decide_eq_true, Bool.false_eq_true,
        Bool.true_eq_false, not_false_eq_true, not_true_eq_false, and_true, true_and,
        and_false, false_and, or_true, true_or, or_false, false_or, not_true,
        not_false_iff, iff_self, true_iff, iff_true, false_iff, iff_false, ite_self,
        decide_eq_decide, decide_False, decide_True, Bool.not_true, Bool.not_false]
  · set_option maxRecDepth 8000 in
    simp only [
        ↓reduceIte, xor_bit15, ↓fast_pow.pow_L_2TAG_PACKET_30_0_2_1_sem,
        ↓fast_pow.pow_L_2TAG_PACKET_29_0_2_1_sem,
        ↓fast_pow.pow_L_2TAG_PACKET_28_0_2_1_sem, ↓fast_pow.pow_L_2TAG_PACKET_7_0_2_3_sem,
        ↓fast_pow.pow_L_2TAG_PACKET_7_0_2_2_sem, ↓fast_pow.pow_L_2TAG_PACKET_7_0_2_1_sem,
        ↓fast_pow.pow_L_2TAG_PACKET_0_0_2_2_sem, ↓fast_pow.pow_L_2TAG_PACKET_0_0_2_1_sem,
        ↓fast_pow.pow_B1_2_1_sem, ↓fast_pow.pow_start_1_sem, ↓fast_pow.pow_entry_1_sem,
        ↓Machine.get_setx, ↓Machine.get_setg, ↓Machine.get_setstk, ↓Machine.get_enter,
        ↓Machine.get_setFlags, ↓Machine.trace_set, ↓Machine.get_ite, ↓Machine.trace_ite,
        ↓Machine.obs_eq_get, ↓Machine.flags_get, ↓Machine.flags_trace, ↓sem_get_1,
        ↓sem_get_2, ↓sem_get_3, ↓sem_get_4, ↓sem_trace_1, ↓sem_trace_2, ↓sem_trace_3,
        ↓sem_trace_4, ↓load_const, cc_iff, ea, and_imm, and_imm_left, ilog2_lit,
        or_eq_zero, or_mod32, or_lt_2p31, Nat.mod_mod, Nat.zero_or, Nat.or_zero,
        Nat.sub_zero, Nat.add_mod_right, lane_eq, Machine.io_eq_get, Nat.xor_self,
        Loc.x.injEq, Loc.g.injEq, Loc.m.injEq, Bool.toNat_eq_zero, Bool.toNat_eq_one,
        Nat.reducePow, Nat.reduceMul, Nat.reduceMod, Nat.reduceAdd, Nat.reduceSub,
        Nat.reduceDiv, Nat.reduceEqDiff, Nat.reduceLTLE, Nat.reduceLeDiff, Nat.reduceLT,
        Nat.reduceGT, Nat.reduceOr, Nat.reduceXor, reduceCtorEq, Bool.not_eq_true',
        Bool.not_eq_true, decide_eq_true_eq, decide_eq_false_iff_not, Bool.and_eq_true,
        Bool.or_eq_true, bne_iff_ne, beq_iff_eq, ne_eq, Bool.not_eq_false',
        Bool.not_eq_false, decide_not, not_not, Bool.decide_eq_true, Bool.false_eq_true,
        Bool.true_eq_false, not_false_eq_true, not_true_eq_false, and_true, true_and,
        and_false, false_and, or_true, true_or, or_false, false_or, not_true,
        not_false_iff, iff_self, true_iff, iff_true, false_iff, iff_false, ite_self,
        decide_eq_decide, decide_False, decide_True, Bool.not_true, Bool.not_false]
    all_goals omega
  · set_option maxRecDepth 8000 in
    simp only [
        ↓reduceIte, xor_bit15, ↓fast_pow.pow_L_2TAG_PACKET_29_0_2_1_sem,
        ↓fast_pow.pow_L_2TAG_PACKET_28_0_2_1_sem, ↓fast_pow.pow_L_2TAG_PACKET_7_0_2_3_sem,
        ↓fast_pow.pow_L_2TAG_PACKET_7_0_2_2_sem, ↓fast_pow.pow_L_2TAG_PACKET_7_0_2_1_sem,
        ↓fast_pow.pow_L_2TAG_PACKET_0_0_2_2_sem, ↓fast_pow.pow_L_2TAG_PACKET_0_0_2_1_sem,
        ↓fast_pow.pow_B1_2_1_sem, ↓fast_pow.pow_start_1_sem, ↓fast_pow.pow_entry_1_sem,
        ↓Machine.get_setx, ↓Machine.get_setg, ↓Machine.get_setstk, ↓Machine.get_enter,
        ↓Machine.get_setFlags, ↓Machine.trace_set, ↓Machine.get_ite, ↓Machine.trace_ite,
        ↓Machine.obs_eq_get, ↓Machine.flags_get, ↓Machine.flags_trace, ↓sem_get_1,
        ↓sem_get_2, ↓sem_get_3, ↓sem_get_4, ↓sem_trace_1, ↓sem_trace_2, ↓sem_trace_3,
        ↓sem_trace_4, ↓load_const, cc_iff, ea, and_imm, and_imm_left, ilog2_lit,
        or_eq_zero, or_mod32, or_lt_2p31, Nat.mod_mod, Nat.zero_or, Nat.or_zero,
        Nat.sub_zero, Nat.add_mod_right, lane_eq, Machine.io_eq_get, Nat.xor_self,
        Loc.x.injEq, Loc.g.injEq, Loc.m.injEq, Bool.toNat_eq_zero, Bool.toNat_eq_one,
        Nat.reducePow, Nat.reduceMul, Nat.reduceMod, Nat.reduceAdd, Nat.reduceSub,
        Nat.reduceDiv, Nat.reduceEqDiff, Nat.reduceLTLE, Nat.reduceLeDiff, Nat.reduceLT,
        Nat.reduceGT, Nat.reduceOr, Nat.reduceXor, reduceCtorEq, Bool.not_eq_true',
        Bool.not_eq_true, decide_eq_true_eq, decide_eq_false_iff_not, Bool.and_eq_true,
        Bool.or_eq_true, bne_iff_ne, beq_iff_eq, ne_eq, Bool.not_eq_false',
        Bool.not_eq_false, decide_not, not_not, Bool.decide_eq_true, Bool.false_eq_true,
        Bool.true_eq_false, not_false_eq_true, not_true_eq_false, and_true, true_and,
        and_false, false_and, or_true, true_or, or_false, false_or, not_true,
        not_false_iff, iff_self, true_iff, iff_true, false_iff, iff_false, ite_self,
        decide_eq_decide, decide_False, decide_True, Bool.not_true, Bool.not_false]
    all_goals omega
  · set_option maxRecDepth 8000 in
    simp only [
        ↓reduceIte, xor_bit15, ↓fast_pow.pow_L_2TAG_PACKET_28_0_2_1_sem,
        ↓fast_pow.pow_L_2TAG_PACKET_7_0_2_3_sem, ↓fast_pow.pow_L_2TAG_PACKET_7_0_2_2_sem,
        ↓fast_pow.pow_L_2TAG_PACKET_7_0_2_1_sem, ↓fast_pow.pow_L_2TAG_PACKET_0_0_2_2_sem,
        ↓fast_pow.pow_L_2TAG_PACKET_0_0_2_1_sem, ↓fast_pow.pow_B1_2_1_sem,
        ↓fast_pow.pow_start_1_sem, ↓fast_pow.pow_entry_1_sem, ↓Machine.get_setx,
        ↓Machine.get_setg, ↓Machine.get_setstk, ↓Machine.get_enter, ↓Machine.get_setFlags,
        ↓Machine.trace_set, ↓Machine.get_ite, ↓Machine.trace_ite, ↓Machine.obs_eq_get,
        ↓Machine.flags_get, ↓Machine.flags_trace, ↓sem_get_1, ↓sem_get_2, ↓sem_get_3,
        ↓sem_get_4, ↓sem_trace_1, ↓sem_trace_2, ↓sem_trace_3, ↓sem_trace_4, ↓load_const,
        cc_iff, ea, and_imm, and_imm_left, ilog2_lit, or_eq_zero, or_mod32, or_lt_2p31,
        Nat.mod_mod, Nat.zero_or, Nat.or_zero, Nat.sub_zero, Nat.add_mod_right, lane_eq,
        Machine.io_eq_get, Nat.xor_self, Loc.x.injEq, Loc.g.injEq, Loc.m.injEq,
        Bool.toNat_eq_zero, Bool.toNat_eq_one, Nat.reducePow, Nat.reduceMul,
        Nat.reduceMod, Nat.reduceAdd, Nat.reduceSub, Nat.reduceDiv, Nat.reduceEqDiff,
        Nat.reduceLTLE, Nat.reduceLeDiff, Nat.reduceLT, Nat.reduceGT, Nat.reduceOr,
        Nat.reduceXor, reduceCtorEq, Bool.not_eq_true', Bool.not_eq_true,
        decide_eq_true_eq, decide_eq_false_iff_not, Bool.and_eq_true, Bool.or_eq_true,
        bne_iff_ne, beq_iff_eq, ne_eq, Bool.not_eq_false', Bool.not_eq_false, decide_not,
        not_not, Bool.decide_eq_true, Bool.false_eq_true, Bool.true_eq_false,
        not_false_eq_true, not_true_eq_false, and_true, true_and, and_false, false_and,
        or_true, true_or, or_false, false_or, not_true, not_false_iff, iff_self, true_iff,
        iff_true, false_iff, iff_false, ite_self, decide_eq_decide, decide_False,
        decide_True, Bool.not_true, Bool.not_false]
    all_goals omega
  · set_option maxRecDepth 8000 in
    simp only [
        ↓reduceIte, xor_bit15, ↓fast_pow.pow_L_2TAG_PACKET_7_0_2_3_sem,
        ↓fast_pow.pow_L_2TAG_PACKET_7_0_2_2_sem, ↓fast_pow.pow_L_2TAG_PACKET_7_0_2_1_sem,
        ↓fast_pow.pow_L_2TAG_PACKET_0_0_2_2_sem, ↓fast_pow.pow_L_2TAG_PACKET_0_0_2_1_sem,
        ↓fast_pow.pow_B1_2_1_sem, ↓fast_pow.pow_start_1_sem, ↓fast_pow.pow_entry_1_sem,
        ↓Machine.get_setx, ↓Machine.get_setg, ↓Machine.get_setstk, ↓Machine.get_enter,
        ↓Machine.get_setFlags, ↓Machine.trace_set, ↓Machine.get_ite, ↓Machine.trace_ite,
        ↓Machine.obs_eq_get, ↓Machine.flags_get, ↓Machine.flags_trace, ↓sem_get_1,
        ↓sem_get_2, ↓sem_get_3, ↓sem_get_4, ↓sem_trace_1, ↓sem_trace_2, ↓sem_trace_3,
        ↓sem_trace_4, ↓load_const, cc_iff, ea, and_imm, and_imm_left, ilog2_lit,
        or_eq_zero, or_mod32, or_lt_2p31, Nat.mod_mod, Nat.zero_or, Nat.or_zero,
        Nat.sub_zero, Nat.add_mod_right, lane_eq, Machine.io_eq_get, Nat.xor_self,
        Loc.x.injEq, Loc.g.injEq, Loc.m.injEq, Bool.toNat_eq_zero, Bool.toNat_eq_one,
        Nat.reducePow, Nat.reduceMul, Nat.reduceMod, Nat.reduceAdd, Nat.reduceSub,
        Nat.reduceDiv, Nat.reduceEqDiff, Nat.reduceLTLE, Nat.reduceLeDiff, Nat.reduceLT,
        Nat.reduceGT, Nat.reduceOr, Nat.reduceXor, reduceCtorEq, Bool.not_eq_true',
        Bool.not_eq_true, decide_eq_true_eq, decide_eq_false_iff_not, Bool.and_eq_true,
        Bool.or_eq_true, bne_iff_ne, beq_iff_eq, ne_eq, Bool.not_eq_false',
        Bool.not_eq_false, decide_not, not_not, Bool.decide_eq_true, Bool.false_eq_true,
        Bool.true_eq_false, not_false_eq_true, not_true_eq_false, and_true, true_and,
        and_false, false_and, or_true, true_or, or_false, false_or, not_true,
        not_false_iff, iff_self, true_iff, iff_true, false_iff, iff_false, ite_self,
        decide_eq_decide, decide_False, decide_True, Bool.not_true, Bool.not_false]
    all_goals omega
  · set_option maxRecDepth 8000 in
    simp only [
        ↓reduceIte, xor_bit15, ↓fast_pow.pow_L_2TAG_PACKET_7_0_2_2_sem,
        ↓fast_pow.pow_L_2TAG_PACKET_7_0_2_1_sem, ↓fast_pow.pow_L_2TAG_PACKET_0_0_2_2_sem,
        ↓fast_pow.pow_L_2TAG_PACKET_0_0_2_1_sem, ↓fast_pow.pow_B1_2_1_sem,
        ↓fast_pow.pow_start_1_sem, ↓fast_pow.pow_entry_1_sem, ↓Machine.get_setx,
        ↓Machine.get_setg, ↓Machine.get_setstk, ↓Machine.get_enter, ↓Machine.get_setFlags,
        ↓Machine.trace_set, ↓Machine.get_ite, ↓Machine.trace_ite, ↓Machine.obs_eq_get,
        ↓Machine.flags_get, ↓Machine.flags_trace, ↓sem_get_1, ↓sem_get_2, ↓sem_get_3,
        ↓sem_get_4, ↓sem_trace_1, ↓sem_trace_2, ↓sem_trace_3, ↓sem_trace_4, ↓load_const,
        cc_iff, ea, and_imm, and_imm_left, ilog2_lit, or_eq_zero, or_mod32, or_lt_2p31,
        Nat.mod_mod, Nat.zero_or, Nat.or_zero, Nat.sub_zero, Nat.add_mod_right, lane_eq,
        Machine.io_eq_get, Nat.xor_self, Loc.x.injEq, Loc.g.injEq, Loc.m.injEq,
        Bool.toNat_eq_zero, Bool.toNat_eq_one, Nat.reducePow, Nat.reduceMul,
        Nat.reduceMod, Nat.reduceAdd, Nat.reduceSub, Nat.reduceDiv, Nat.reduceEqDiff,
        Nat.reduceLTLE, Nat.reduceLeDiff, Nat.reduceLT, Nat.reduceGT, Nat.reduceOr,
        Nat.reduceXor, reduceCtorEq, Bool.not_eq_true', Bool.not_eq_true,
        decide_eq_true_eq, decide_eq_false_iff_not, Bool.and_eq_true, Bool.or_eq_true,
        bne_iff_ne, beq_iff_eq, ne_eq, Bool.not_eq_false', Bool.not_eq_false, decide_not,
        not_not, Bool.decide_eq_true, Bool.false_eq_true, Bool.true_eq_false,
        not_false_eq_true, not_true_eq_false, and_true, true_and, and_false, false_and,
        or_true, true_or, or_false, false_or, not_true, not_false_iff, iff_self, true_iff,
        iff_true, false_iff, iff_false, ite_self, decide_eq_decide, decide_False,
        decide_True, Bool.not_true, Bool.not_false]
    all_goals omega
  · set_option maxRecDepth 8000 in
    simp only [
        ↓reduceIte, xor_bit15, ↓fast_pow.pow_L_2TAG_PACKET_7_0_2_1_sem,
        ↓fast_pow.pow_L_2TAG_PACKET_0_0_2_2_sem, ↓fast_pow.pow_L_2TAG_PACKET_0_0_2_1_sem,
        ↓fast_pow.pow_B1_2_1_sem, ↓fast_pow.pow_start_1_sem, ↓fast_pow.pow_entry_1_sem,
        ↓Machine.get_setx, ↓Machine.get_setg, ↓Machine.get_setstk, ↓Machine.get_enter,
        ↓Machine.get_setFlags, ↓Machine.trace_set, ↓Machine.get_ite, ↓Machine.trace_ite,
        ↓Machine.obs_eq_get, ↓Machine.flags_get, ↓Machine.flags_trace, ↓sem_get_1,
        ↓sem_get_2, ↓sem_get_3, ↓sem_get_4, ↓sem_trace_1, ↓sem_trace_2, ↓sem_trace_3,
        ↓sem_trace_4, ↓load_const, cc_iff, ea, and_imm, and_imm_left, ilog2_lit,
        or_eq_zero, or_mod32, or_lt_2p31, Nat.mod_mod, Nat.zero_or, Nat.or_zero,
        Nat.sub_zero, Nat.add_mod_right, lane_eq, Machine.io_eq_get, Nat.xor_self,
        Loc.x.injEq, Loc.g.injEq, Loc.m.injEq, Bool.toNat_eq_zero, Bool.toNat_eq_one,
        Nat.reducePow, Nat.reduceMul, Nat.reduceMod, Nat.reduceAdd, Nat.reduceSub,
        Nat.reduceDiv, Nat.reduceEqDiff, Nat.reduceLTLE, Nat.reduceLeDiff, Nat.reduceLT,
        Nat.reduceGT, Nat.reduceOr, Nat.reduceXor, reduceCtorEq, Bool.not_eq_true',
        Bool.not_eq_true, decide_eq_true_eq, decide_eq_false_iff_not, Bool.and_eq_true,
        Bool.or_eq_true, bne_iff_ne, beq_iff_eq, ne_eq, Bool.not_eq_false',
        Bool.not_eq_false, decide_not, not_not, Bool.decide_eq_true, Bool.false_eq_true,
        Bool.true_eq_false, not_false_eq_true, not_true_eq_false, and_true, true_and,
        and_false, false_and, or_true, true_or, or_false, false_or, not_true,
        not_false_iff, iff_self, true_iff, iff_true, false_iff, iff_false, ite_self,
        decide_eq_decide, decide_False, decide_True, Bool.not_true, Bool.not_false]
    all_goals omega
  · set_option maxRecDepth 8000 in
    simp only [
        ↓reduceIte, xor_bit15, ↓fast_pow.pow_L_2TAG_PACKET_0_0_2_2_sem,
        ↓fast_pow.pow_L_2TAG_PACKET_0_0_2_1_sem, ↓fast_pow.pow_B1_2_1_sem,
        ↓fast_pow.pow_start_1_sem, ↓fast_pow.pow_entry_1_sem, ↓Machine.get_setx,
        ↓Machine.get_setg, ↓Machine.get_setstk, ↓Machine.get_enter, ↓Machine.get_setFlags,
        ↓Machine.trace_set, ↓Machine.get_ite, ↓Machine.trace_ite, ↓Machine.obs_eq_get,
        ↓Machine.flags_get, ↓Machine.flags_trace, ↓sem_get_1, ↓sem_get_2, ↓sem_get_3,
        ↓sem_get_4, ↓sem_trace_1, ↓sem_trace_2, ↓sem_trace_3, ↓sem_trace_4, ↓load_const,
        cc_iff, ea, and_imm, and_imm_left, ilog2_lit, or_eq_zero, or_mod32, or_lt_2p31,
        Nat.mod_mod, Nat.zero_or, Nat.or_zero, Nat.sub_zero, Nat.add_mod_right, lane_eq,
        Machine.io_eq_get, Nat.xor_self, Loc.x.injEq, Loc.g.injEq, Loc.m.injEq,
        Bool.toNat_eq_zero, Bool.toNat_eq_one, Nat.reducePow, Nat.reduceMul,
        Nat.reduceMod, Nat.reduceAdd, Nat.reduceSub, Nat.reduceDiv, Nat.reduceEqDiff,
        Nat.reduceLTLE, Nat.reduceLeDiff, Nat.reduceLT, Nat.reduceGT, Nat.reduceOr,
        Nat.reduceXor, reduceCtorEq, Bool.not_eq_true', Bool.not_eq_true,
        decide_eq_true_eq, decide_eq_false_iff_not, Bool.and_eq_true, Bool.or_eq_true,
        bne_iff_ne, beq_iff_eq, ne_eq, Bool.not_eq_false', Bool.not_eq_false, decide_not,
        not_not, Bool.decide_eq_true, Bool.false_eq_true, Bool.true_eq_false,
        not_false_eq_true, not_true_eq_false, and_true, true_and, and_false, false_and,
        or_true, true_or, or_false, false_or, not_true, not_false_iff, iff_self, true_iff,
        iff_true, false_iff, iff_false, ite_self, decide_eq_decide, decide_False,
        decide_True, Bool.not_true, Bool.not_false]
    all_goals omega
  · set_option maxRecDepth 8000 in
    simp only [
        ↓reduceIte, xor_bit15, ↓fast_pow.pow_L_2TAG_PACKET_0_0_2_1_sem,
        ↓fast_pow.pow_B1_2_1_sem, ↓fast_pow.pow_start_1_sem, ↓fast_pow.pow_entry_1_sem,
        ↓Machine.get_setx, ↓Machine.get_setg, ↓Machine.get_setstk, ↓Machine.get_enter,
        ↓Machine.get_setFlags, ↓Machine.trace_set, ↓Machine.get_ite, ↓Machine.trace_ite,
        ↓Machine.obs_eq_get, ↓Machine.flags_get, ↓Machine.flags_trace, ↓sem_get_1,
        ↓sem_get_2, ↓sem_get_3, ↓sem_get_4, ↓sem_trace_1, ↓sem_trace_2, ↓sem_trace_3,
        ↓sem_trace_4, ↓load_const, cc_iff, ea, and_imm, and_imm_left, ilog2_lit,
        or_eq_zero, or_mod32, or_lt_2p31, Nat.mod_mod, Nat.zero_or, Nat.or_zero,
        Nat.sub_zero, Nat.add_mod_right, lane_eq, Machine.io_eq_get, Nat.xor_self,
        Loc.x.injEq, Loc.g.injEq, Loc.m.injEq, Bool.toNat_eq_zero, Bool.toNat_eq_one,
        Nat.reducePow, Nat.reduceMul, Nat.reduceMod, Nat.reduceAdd, Nat.reduceSub,
        Nat.reduceDiv, Nat.reduceEqDiff, Nat.reduceLTLE, Nat.reduceLeDiff, Nat.reduceLT,
        Nat.reduceGT, Nat.reduceOr, Nat.reduceXor, reduceCtorEq, Bool.not_eq_true',
        Bool.not_eq_true, decide_eq_true_eq, decide_eq_false_iff_not, Bool.and_eq_true,
        Bool.or_eq_true, bne_iff_ne, beq_iff_eq, ne_eq, Bool.not_eq_false',
        Bool.not_eq_false, decide_not, not_not, Bool.decide_eq_true, Bool.false_eq_true,
        Bool.true_eq_false, not_false_eq_true, not_true_eq_false, and_true, true_and,
        and_false, false_and, or_true, true_or, or_false, false_or, not_true,
        not_false_iff, iff_self, true_iff, iff_true, false_iff, iff_false, ite_self,
        decide_eq_decide, decide_False, decide_True, Bool.not_true, Bool.not_false]
    all_goals omega
  · set_option maxRecDepth 8000 in
    simp only [
        ↓reduceIte, xor_bit15, ↓fast_pow.pow_B1_2_1_sem, ↓fast_pow.pow_start_1_sem,
        ↓fast_pow.pow_entry_1_sem, ↓Machine.get_setx, ↓Machine.get_setg,
        ↓Machine.get_setstk, ↓Machine.get_enter, ↓Machine.get_setFlags,
        ↓Machine.trace_set, ↓Machine.get_ite, ↓Machine.trace_ite, ↓Machine.obs_eq_get,
        ↓Machine.flags_get, ↓Machine.flags_trace, ↓sem_get_1, ↓sem_get_2, ↓sem_get_3,
        ↓sem_get_4, ↓sem_trace_1, ↓sem_trace_2, ↓sem_trace_3, ↓sem_trace_4, ↓load_const,
        cc_iff, ea, and_imm, and_imm_left, ilog2_lit, or_eq_zero, or_mod32, or_lt_2p31,
        Nat.mod_mod, Nat.zero_or, Nat.or_zero, Nat.sub_zero, Nat.add_mod_right, lane_eq,
        Machine.io_eq_get, Nat.xor_self, Loc.x.injEq, Loc.g.injEq, Loc.m.injEq,
        Bool.toNat_eq_zero, Bool.toNat_eq_one, Nat.reducePow, Nat.reduceMul,
        Nat.reduceMod, Nat.reduceAdd, Nat.reduceSub, Nat.reduceDiv, Nat.reduceEqDiff,
        Nat.reduceLTLE, Nat.reduceLeDiff, Nat.reduceLT, Nat.reduceGT, Nat.reduceOr,
        Nat.reduceXor, reduceCtorEq, Bool.not_eq_true', Bool.not_eq_true,
        decide_eq_true_eq, decide_eq_false_iff_not, Bool.and_eq_true, Bool.or_eq_true,
        bne_iff_ne, beq_iff_eq, ne_eq, Bool.not_eq_false', Bool.not_eq_false, decide_not,
        not_not, Bool.decide_eq_true, Bool.false_eq_true, Bool.true_eq_false,
        not_false_eq_true, not_true_eq_false, and_true, true_and, and_false, false_and,
        or_true, true_or, or_false, false_or, not_true, not_false_iff, iff_self, true_iff,
        iff_true, false_iff, iff_false, ite_self, decide_eq_decide, decide_False,
        decide_True, Bool.not_true, Bool.not_false]
    all_goals omega

theorem fast_pow_neg_near_pinf_run (cpu : Cpu) (s : Machine)
    (h1 : 0xBFF0000000000000 < s.arg0) (h3 : s.arg0 / 2 ^ 48 = 49136)
    (hy : s.arg1 = 0x7FF0000000000000) :
    (fast_pow cpu s).result = 0x7FF0000000000000 := by
  simp only [Machine.io_eq_get, Nat.reducePow] at h1 h3 hy
  rw [
      fast_pow, fast_pow.pow_entry_eq, fast_pow.pow_start_eq, fast_pow.pow_B1_2_eq, if_pos,
      fast_pow.pow_L_2TAG_PACKET_0_0_2_eq, if_neg, if_pos,
      fast_pow.pow_L_2TAG_PACKET_7_0_2_eq, if_neg, if_neg, if_pos,
      fast_pow.pow_L_2TAG_PACKET_28_0_2_eq, if_pos, fast_pow.pow_L_2TAG_PACKET_29_0_2_eq,
      if_neg, if_pos, fast_pow.pow_L_2TAG_PACKET_30_0_2_eq, if_pos,
      fast_pow.pow_L_2TAG_PACKET_31_0_2_eq, fast_pow.pow_B1_5_eq]
  · set_option maxRecDepth 8000 in
    simp only [
        ↓reduceIte, xor_bit15, ↓fast_pow.pow_B1_5_1_sem,
        ↓fast_pow.pow_L_2TAG_PACKET_31_0_2_1_sem,
        ↓fast_pow.pow_L_2TAG_PACKET_30_0_2_1_sem,
        ↓fast_pow.pow_L_2TAG_PACKET_29_0_2_2_sem,
        ↓fast_pow.pow_L_2TAG_PACKET_29_0_2_1_sem,
        ↓fast_pow.pow_L_2TAG_PACKET_28_0_2_1_sem, ↓fast_pow.pow_L_2TAG_PACKET_7_0_2_3_sem,
        ↓fast_pow.pow_L_2TAG_PACKET_7_0_2_2_sem, ↓fast_pow.pow_L_2TAG_PACKET_7_0_2_1_sem,
        ↓fast_pow.pow_L_2TAG_PACKET_0_0_2_2_sem, ↓fast_pow.pow_L_2TAG_PACKET_0_0_2_1_sem,
        ↓fast_pow.pow_B1_2_1_sem, ↓fast_pow.pow_start_1_sem, ↓fast_pow.pow_entry_1_sem,
        ↓Machine.get_setx, ↓Machine.get_setg, ↓Machine.get_setstk, ↓Machine.get_enter,
        ↓Machine.get_setFlags, ↓Machine.trace_set, ↓Machine.get_ite, ↓Machine.trace_ite,
        ↓Machine.obs_eq_get, ↓Machine.flags_get, ↓Machine.flags_trace, ↓sem_get_1,
        ↓sem_get_2, ↓sem_get_3, ↓sem_get_4, ↓sem_trace_1, ↓sem_trace_2, ↓sem_trace_3,
        ↓sem_trace_4, ↓load_const, cc_iff, ea, and_imm, and_imm_left, ilog2_lit,
        or_eq_zero, or_mod32, or_lt_2p31, Nat.mod_mod, Nat.zero_or, Nat.or_zero,
        Nat.sub_zero, Nat.add_mod_right, lane_eq, Machine.io_eq_get, Nat.xor_self,
        Loc.x.injEq, Loc.g.injEq, Loc.m.injEq, Bool.toNat_eq_zero, Bool.toNat_eq_one,
        Nat.reducePow, Nat.reduceMul, Nat.reduceMod, Nat.reduceAdd, Nat.reduceSub,
        Nat.reduceDiv, Nat.reduceEqDiff, Nat.reduceLTLE, Nat.reduceLeDiff, Nat.reduceLT,
        Nat.reduceGT, Nat.reduceOr, Nat.reduceXor, reduceCtorEq, Bool.not_eq_true',
        Bool.not_eq_true, decide_eq_true_eq, decide_eq_false_iff_not, Bool.and_eq_true,
        Bool.or_eq_true, bne_iff_ne, beq_iff_eq, ne_eq, Bool.not_eq_false',
        Bool.not_eq_false, decide_not, not_not, Bool.decide_eq_true, Bool.false_eq_true,
        Bool.true_eq_false, not_false_eq_true, not_true_eq_false, and_true, true_and,
        and_false, false_and, or_true, true_or, or_false, false_or, not_true,
        not_false_iff, iff_self, true_iff, iff_true, false_iff, iff_false, ite_self,
        decide_eq_decide, decide_False, decide_True, Bool.not_true, Bool.not_false]
  · set_option maxRecDepth 8000 in
    simp only [
        ↓reduceIte, xor_bit15, ↓fast_pow.pow_L_2TAG_PACKET_30_0_2_1_sem,
        ↓fast_pow.pow_L_2TAG_PACKET_29_0_2_2_sem,
        ↓fast_pow.pow_L_2TAG_PACKET_29_0_2_1_sem,
        ↓fast_pow.pow_L_2TAG_PACKET_28_0_2_1_sem, ↓fast_pow.pow_L_2TAG_PACKET_7_0_2_3_sem,
        ↓fast_pow.pow_L_2TAG_PACKET_7_0_2_2_sem, ↓fast_pow.pow_L_2TAG_PACKET_7_0_2_1_sem,
        ↓fast_pow.pow_L_2TAG_PACKET_0_0_2_2_sem, ↓fast_pow.pow_L_2TAG_PACKET_0_0_2_1_sem,
        ↓fast_pow.pow_B1_2_1_sem, ↓fast_pow.pow_start_1_sem, ↓fast_pow.pow_entry_1_sem,
        ↓Machine.get_setx, ↓Machine.get_setg, ↓Machine.get_setstk, ↓Machine.get_enter,
        ↓Machine.get_setFlags, ↓Machine.trace_set, ↓Machine.get_ite, ↓Machine.trace_ite,
        ↓Machine.obs_eq_get, ↓Machine.flags_get, ↓Machine.flags_trace, ↓sem_get_1,
        ↓sem_get_2, ↓sem_get_3, ↓sem_get_4, ↓sem_trace_1, ↓sem_trace_2, ↓sem_trace_3,
        ↓sem_trace_4, ↓load_const, cc_iff, ea, and_imm, and_imm_left, ilog2_lit,
        or_eq_zero, or_mod32, or_lt_2p31, Nat.mod_mod, Nat.zero_or, Nat.or_zero,
        Nat.sub_zero, Nat.add_mod_right, lane_eq, Machine.io_eq_get, Nat.xor_self,
        Loc.x.injEq, Loc.g.injEq, Loc.m.injEq, Bool.toNat_eq_zero, Bool.toNat_eq_one,
        Nat.reducePow, Nat.reduceMul, Nat.reduceMod, Nat.reduceAdd, Nat.reduceSub,
        Nat.reduceDiv, Nat.reduceEqDiff, Nat.reduceLTLE, Nat.reduceLeDiff, Nat.reduceLT,
        Nat.reduceGT, Nat.reduceOr, Nat.reduceXor, reduceCtorEq, Bool.not_eq_true',
        Bool.not_eq_true, decide_eq_true_eq, decide_eq_false_iff_not, Bool.and_eq_true,
        Bool.or_eq_true, bne_iff_ne, beq_iff_eq, ne_eq, Bool.not_eq_false',
        Bool.not_eq_false, decide_not, not_not, Bool.decide_eq_true, Bool.false_eq_true,
        Bool.true_eq_false, not_false_eq_true, not_true_eq_false, and_true, true_and,
        and_false, false_and, or_true, true_or, or_false, false_or, not_true,
        not_false_iff, iff_self, true_iff, iff_true, false_iff, iff_false, ite_self,
        decide_eq_decide, decide_False, decide_True, Bool.not_true, Bool.not_false]
    all_goals omega
  · set_option maxRecDepth 8000 in
    simp only [
        ↓reduceIte, xor_bit15, ↓fast_pow.pow_L_2TAG_PACKET_29_0_2_2_sem,
        ↓fast_pow.pow_L_2TAG_PACKET_29_0_2_1_sem,
        ↓fast_pow.pow_L_2TAG_PACKET_28_0_2_1_sem, ↓fast_pow.pow_L_2TAG_PACKET_7_0_2_3_sem,
        ↓fast_pow.pow_L_2TAG_PACKET_7_0_2_2_sem, ↓fast_pow.pow_L_2TAG_PACKET_7_0_2_1_sem,
        ↓fast_pow.pow_L_2TAG_PACKET_0_0_2_2_sem, ↓fast_pow.pow_L_2TAG_PACKET_0_0_2_1_sem,
        ↓fast_pow.pow_B1_2_1_sem, ↓fast_pow.pow_start_1_sem, ↓fast_pow.pow_entry_1_sem,
        ↓Machine.get_setx, ↓Machine.get_setg, ↓Machine.get_setstk, ↓Machine.get_enter,
        ↓Machine.get_setFlags, ↓Machine.trace_set, ↓Machine.get_ite, ↓Machine.trace_ite,
        ↓Machine.obs_eq_get, ↓Machine.flags_get, ↓Machine.flags_trace, ↓sem_get_1,
        ↓sem_get_2, ↓sem_get_3, ↓sem_get_4, ↓sem_trace_1, ↓sem_trace_2, ↓sem_trace_3,
        ↓sem_trace_4, ↓load_const, cc_iff, ea, and_imm, and_imm_left, ilog2_lit,
        or_eq_zero, or_mod32, or_lt_2p31, Nat.mod_mod, Nat.zero_or, Nat.or_zero,
        Nat.sub_zero, Nat.add_mod_right, lane_eq, Machine.io_eq_get, Nat.xor_self,
        Loc.x.injEq, Loc.g.injEq, Loc.m.injEq, Bool.toNat_eq_zero, Bool.toNat_eq_one,
        Nat.reducePow, Nat.reduceMul, Nat.reduceMod, Nat.reduceAdd, Nat.reduceSub,
        Nat.reduceDiv, Nat.reduceEqDiff, Nat.reduceLTLE, Nat.reduceLeDiff, Nat.reduceLT,
        Nat.reduceGT, Nat.reduceOr, Nat.reduceXor, reduceCtorEq, Bool.not_eq_true',
        Bool.not_eq_true, decide_eq_true_eq, decide_eq_false_iff_not, Bool.and_eq_true,
        Bool.or_eq_true, bne_iff_ne, beq_iff_eq, ne_eq, Bool.not_eq_false',
        Bool.not_eq_false, decide_not, not_not, Bool.decide_eq_true, Bool.false_eq_true,
        Bool.true_eq_false, not_false_eq_true, not_true_eq_false, and_true, true_and,
        and_false, false_and, or_true, true_or, or_false, false_or, not_true,
        not_false_iff, iff_self, true_iff, iff_true, false_iff, iff_false, ite_self,
        decide_eq_decide, decide_False, decide_True, Bool.not_true, Bool.not_false]
    all_goals omega
  · set_option maxRecDepth 8000 in
    simp only [
        ↓reduceIte, xor_bit15, ↓fast_pow.pow_L_2TAG_PACKET_29_0_2_1_sem,
        ↓fast_pow.pow_L_2TAG_PACKET_28_0_2_1_sem, ↓fast_pow.pow_L_2TAG_PACKET_7_0_2_3_sem,
        ↓fast_pow.pow_L_2TAG_PACKET_7_0_2_2_sem, ↓fast_pow.pow_L_2TAG_PACKET_7_0_2_1_sem,
        ↓fast_pow.pow_L_2TAG_PACKET_0_0_2_2_sem, ↓fast_pow.pow_L_2TAG_PACKET_0_0_2_1_sem,
        ↓fast_pow.pow_B1_2_1_sem, ↓fast_pow.pow_start_1_sem, ↓fast_pow.pow_entry_1_sem,
        ↓Machine.get_setx, ↓Machine.get_setg, ↓Machine.get_setstk, ↓Machine.get_enter,
        ↓Machine.get_setFlags, ↓Machine.trace_set, ↓Machine.get_ite, ↓Machine.trace_ite,
        ↓Machine.obs_eq_get, ↓Machine.flags_get, ↓Machine.flags_trace, ↓sem_get_1,
        ↓sem_get_2, ↓sem_get_3, ↓sem_get_4, ↓sem_trace_1, ↓sem_trace_2, ↓sem_trace_3,
        ↓sem_trace_4, ↓load_const, cc_iff, ea, and_imm, and_imm_left, ilog2_lit,
        or_eq_zero, or_mod32, or_lt_2p31, Nat.mod_mod, Nat.zero_or, Nat.or_zero,
        Nat.sub_zero, Nat.add_mod_right, lane_eq, Machine.io_eq_get, Nat.xor_self,
        Loc.x.injEq, Loc.g.injEq, Loc.m.injEq, Bool.toNat_eq_zero, Bool.toNat_eq_one,
        Nat.reducePow, Nat.reduceMul, Nat.reduceMod, Nat.reduceAdd, Nat.reduceSub,
        Nat.reduceDiv, Nat.reduceEqDiff, Nat.reduceLTLE, Nat.reduceLeDiff, Nat.reduceLT,
        Nat.reduceGT, Nat.reduceOr, Nat.reduceXor, reduceCtorEq, Bool.not_eq_true',
        Bool.not_eq_true, decide_eq_true_eq, decide_eq_false_iff_not, Bool.and_eq_true,
        Bool.or_eq_true, bne_iff_ne, beq_iff_eq, ne_eq, Bool.not_eq_false',
        Bool.not_eq_false, decide_not, not_not, Bool.decide_eq_true, Bool.false_eq_true,
        Bool.true_eq_false, not_false_eq_true, not_true_eq_false, and_true, true_and,
        and_false, false_and, or_true, true_or, or_false, false_or, not_true,
        not_false_iff, iff_self, true_iff, iff_true, false_iff, iff_false, ite_self,
        decide_eq_decide, decide_False, decide_True, Bool.not_true, Bool.not_false]
    all_goals omega
  · set_option maxRecDepth 8000 in
    simp only [
        ↓reduceIte, xor_bit15, ↓fast_pow.pow_L_2TAG_PACKET_28_0_2_1_sem,
        ↓fast_pow.pow_L_2TAG_PACKET_7_0_2_3_sem, ↓fast_pow.pow_L_2TAG_PACKET_7_0_2_2_sem,
        ↓fast_pow.pow_L_2TAG_PACKET_7_0_2_1_sem, ↓fast_pow.pow_L_2TAG_PACKET_0_0_2_2_sem,
        ↓fast_pow.pow_L_2TAG_PACKET_0_0_2_1_sem, ↓fast_pow.pow_B1_2_1_sem,
        ↓fast_pow.pow_start_1_sem, ↓fast_pow.pow_entry_1_sem, ↓Machine.get_setx,
        ↓Machine.get_setg, ↓Machine.get_setstk, ↓Machine.get_enter, ↓Machine.get_setFlags,
        ↓Machine.trace_set, ↓Machine.get_ite, ↓Machine.trace_ite, ↓Machine.obs_eq_get,
        ↓Machine.flags_get, ↓Machine.flags_trace, ↓sem_get_1, ↓sem_get_2, ↓sem_get_3,
        ↓sem_get_4, ↓sem_trace_1, ↓sem_trace_2, ↓sem_trace_3, ↓sem_trace_4, ↓load_const,
        cc_iff, ea, and_imm, and_imm_left, ilog2_lit, or_eq_zero, or_mod32, or_lt_2p31,
        Nat.mod_mod, Nat.zero_or, Nat.or_zero, Nat.sub_zero, Nat.add_mod_right, lane_eq,
        Machine.io_eq_get, Nat.xor_self, Loc.x.injEq, Loc.g.injEq, Loc.m.injEq,
        Bool.toNat_eq_zero, Bool.toNat_eq_one, Nat.reducePow, Nat.reduceMul,
        Nat.reduceMod, Nat.reduceAdd, Nat.reduceSub, Nat.reduceDiv, Nat.reduceEqDiff,
        Nat.reduceLTLE, Nat.reduceLeDiff, Nat.reduceLT, Nat.reduceGT, Nat.reduceOr,
        Nat.reduceXor, reduceCtorEq, Bool.not_eq_true', Bool.not_eq_true,
        decide_eq_true_eq, decide_eq_false_iff_not, Bool.and_eq_true, Bool.or_eq_true,
        bne_iff_ne, beq_iff_eq, ne_eq, Bool.not_eq_false', Bool.not_eq_false, decide_not,
        not_not, Bool.decide_eq_true, Bool.false_eq_true, Bool.true_eq_false,
        not_false_eq_true, not_true_eq_false, and_true, true_and, and_false, false_and,
        or_true, true_or, or_false, false_or, not_true, not_false_iff, iff_self, true_iff,
        iff_true, false_iff, iff_false, ite_self, decide_eq_decide, decide_False,
        decide_True, Bool.not_true, Bool.not_false]
    all_goals omega
  · set_option maxRecDepth 8000 in
    simp only [
        ↓reduceIte, xor_bit15, ↓fast_pow.pow_L_2TAG_PACKET_7_0_2_3_sem,
        ↓fast_pow.pow_L_2TAG_PACKET_7_0_2_2_sem, ↓fast_pow.pow_L_2TAG_PACKET_7_0_2_1_sem,
        ↓fast_pow.pow_L_2TAG_PACKET_0_0_2_2_sem, ↓fast_pow.pow_L_2TAG_PACKET_0_0_2_1_sem,
        ↓fast_pow.pow_B1_2_1_sem, ↓fast_pow.pow_start_1_sem, ↓fast_pow.pow_entry_1_sem,
        ↓Machine.get_setx, ↓Machine.get_setg, ↓Machine.get_setstk, ↓Machine.get_enter,
        ↓Machine.get_setFlags, ↓Machine.trace_set, ↓Machine.get_ite, ↓Machine.trace_ite,
        ↓Machine.obs_eq_get, ↓Machine.flags_get, ↓Machine.flags_trace, ↓sem_get_1,
        ↓sem_get_2, ↓sem_get_3, ↓sem_get_4, ↓sem_trace_1, ↓sem_trace_2, ↓sem_trace_3,
        ↓sem_trace_4, ↓load_const, cc_iff, ea, and_imm, and_imm_left, ilog2_lit,
        or_eq_zero, or_mod32, or_lt_2p31, Nat.mod_mod, Nat.zero_or, Nat.or_zero,
        Nat.sub_zero, Nat.add_mod_right, lane_eq, Machine.io_eq_get, Nat.xor_self,
        Loc.x.injEq, Loc.g.injEq, Loc.m.injEq, Bool.toNat_eq_zero, Bool.toNat_eq_one,
        Nat.reducePow, Nat.reduceMul, Nat.reduceMod, Nat.reduceAdd, Nat.reduceSub,
        Nat.reduceDiv, Nat.reduceEqDiff, Nat.reduceLTLE, Nat.reduceLeDiff, Nat.reduceLT,
        Nat.reduceGT, Nat.reduceOr, Nat.reduceXor, reduceCtorEq, Bool.not_eq_true',
        Bool.not_eq_true, decide_eq_true_eq, decide_eq_false_iff_not, Bool.and_eq_true,
        Bool.or_eq_true, bne_iff_ne, beq_iff_eq, ne_eq, Bool.not_eq_false',
        Bool.not_eq_false, decide_not, not_not, Bool.decide_eq_true, Bool.false_eq_true,
        Bool.true_eq_false, not_false_eq_true, not_true_eq_false, and_true, true_and,
        and_false, false_and, or_true, true_or, or_false, false_or, not_true,
        not_false_iff, iff_self, true_iff, iff_true, false_iff, iff_false, ite_self,
        decide_eq_decide, decide_False, decide_True, Bool.not_true, Bool.not_false]
    all_goals omega
  · set_option maxRecDepth 8000 in
    simp only [
        ↓reduceIte, xor_bit15, ↓fast_pow.pow_L_2TAG_PACKET_7_0_2_2_sem,
        ↓fast_pow.pow_L_2TAG_PACKET_7_0_2_1_sem, ↓fast_pow.pow_L_2TAG_PACKET_0_0_2_2_sem,
        ↓fast_pow.pow_L_2TAG_PACKET_0_0_2_1_sem, ↓fast_pow.pow_B1_2_1_sem,
        ↓fast_pow.pow_start_1_sem, ↓fast_pow.pow_entry_1_sem, ↓Machine.get_setx,
        ↓Machine.get_setg, ↓Machine.get_setstk, ↓Machine.get_enter, ↓Machine.get_setFlags,
        ↓Machine.trace_set, ↓Machine.get_ite, ↓Machine.trace_ite, ↓Machine.obs_eq_get,
        ↓Machine.flags_get, ↓Machine.flags_trace, ↓sem_get_1, ↓sem_get_2, ↓sem_get_3,
        ↓sem_get_4, ↓sem_trace_1, ↓sem_trace_2, ↓sem_trace_3, ↓sem_trace_4, ↓load_const,
        cc_iff, ea, and_imm, and_imm_left, ilog2_lit, or_eq_zero, or_mod32, or_lt_2p31,
        Nat.mod_mod, Nat.zero_or, Nat.or_zero, Nat.sub_zero, Nat.add_mod_right, lane_eq,
        Machine.io_eq_get, Nat.xor_self, Loc.x.injEq, Loc.g.injEq, Loc.m.injEq,
        Bool.toNat_eq_zero, Bool.toNat_eq_one, Nat.reducePow, Nat.reduceMul,
        Nat.reduceMod, Nat.reduceAdd, Nat.reduceSub, Nat.reduceDiv, Nat.reduceEqDiff,
        Nat.reduceLTLE, Nat.reduceLeDiff, Nat.reduceLT, Nat.reduceGT, Nat.reduceOr,
        Nat.reduceXor, reduceCtorEq, Bool.not_eq_true', Bool.not_eq_true,
        decide_eq_true_eq, decide_eq_false_iff_not, Bool.and_eq_true, Bool.or_eq_true,
        bne_iff_ne, beq_iff_eq, ne_eq, Bool.not_eq_false', Bool.not_eq_false, decide_not,
        not_not, Bool.decide_eq_true, Bool.false_eq_true, Bool.true_eq_false,
        not_false_eq_true, not_true_eq_false, and_true, true_and, and_false, false_and,
        or_true, true_or, or_false, false_or, not_true, not_false_iff, iff_self, true_iff,
        iff_true, false_iff, iff_false, ite_self, decide_eq_decide, decide_False,
        decide_True, Bool.not_true, Bool.not_false]
    all_goals omega
  · set_option maxRecDepth 8000 in
    simp only [
        ↓reduceIte, xor_bit15, ↓fast_pow.pow_L_2TAG_PACKET_7_0_2_1_sem,
        ↓fast_pow.pow_L_2TAG_PACKET_0_0_2_2_sem, ↓fast_pow.pow_L_2TAG_PACKET_0_0_2_1_sem,
        ↓fast_pow.pow_B1_2_1_sem, ↓fast_pow.pow_start_1_sem, ↓fast_pow.pow_entry_1_sem,
        ↓Machine.get_setx, ↓Machine.get_setg, ↓Machine.get_setstk, ↓Machine.get_enter,
        ↓Machine.get_setFlags, ↓Machine.trace_set, ↓Machine.get_ite, ↓Machine.trace_ite,
        ↓Machine.obs_eq_get, ↓Machine.flags_get, ↓Machine.flags_trace, ↓sem_get_1,
        ↓sem_get_2, ↓sem_get_3, ↓sem_get_4, ↓sem_trace_1, ↓sem_trace_2, ↓sem_trace_3,
        ↓sem_trace_4, ↓load_const, cc_iff, ea, and_imm, and_imm_left, ilog2_lit,
        or_eq_zero, or_mod32, or_lt_2p31, Nat.mod_mod, Nat.zero_or, Nat.or_zero,
        Nat.sub_zero, Nat.add_mod_right, lane_eq, Machine.io_eq_get, Nat.xor_self,
        Loc.x.injEq, Loc.g.injEq, Loc.m.injEq, Bool.toNat_eq_zero, Bool.toNat_eq_one,
        Nat.reducePow, Nat.reduceMul, Nat.reduceMod, Nat.reduceAdd, Nat.reduceSub,
        Nat.reduceDiv, Nat.reduceEqDiff, Nat.reduceLTLE, Nat.reduceLeDiff, Nat.reduceLT,
        Nat.reduceGT, Nat.reduceOr, Nat.reduceXor, reduceCtorEq, Bool.not_eq_true',
        Bool.not_eq_true, decide_eq_true_eq, decide_eq_false_iff_not, Bool.and_eq_true,
        Bool.or_eq_true, bne_iff_ne, beq_iff_eq, ne_eq, Bool.not_eq_false',
        Bool.not_eq_false, decide_not, not_not, Bool.decide_eq_true, Bool.false_eq_true,
        Bool.true_eq_false, not_false_eq_true, not_true_eq_false, and_true, true_and,
        and_false, false_and, or_true, true_or, or_false, false_or, not_true,
        not_false_iff, iff_self, true_iff, iff_true, false_iff, iff_false, ite_self,
        decide_eq_decide, decide_False, decide_True, Bool.not_true, Bool.not_false]
    all_goals omega
  · set_option maxRecDepth 8000 in
    simp only [
        ↓reduceIte, xor_bit15, ↓fast_pow.pow_L_2TAG_PACKET_0_0_2_2_sem,
        ↓fast_pow.pow_L_2TAG_PACKET_0_0_2_1_sem, ↓fast_pow.pow_B1_2_1_sem,
        ↓fast_pow.pow_start_1_sem, ↓fast_pow.pow_entry_1_sem, ↓Machine.get_setx,
        ↓Machine.get_setg, ↓Machine.get_setstk, ↓Machine.get_enter, ↓Machine.get_setFlags,
        ↓Machine.trace_set, ↓Machine.get_ite, ↓Machine.trace_ite, ↓Machine.obs_eq_get,
        ↓Machine.flags_get, ↓Machine.flags_trace, ↓sem_get_1, ↓sem_get_2, ↓sem_get_3,
        ↓sem_get_4, ↓sem_trace_1, ↓sem_trace_2, ↓sem_trace_3, ↓sem_trace_4, ↓load_const,
        cc_iff, ea, and_imm, and_imm_left, ilog2_lit, or_eq_zero, or_mod32, or_lt_2p31,
        Nat.mod_mod, Nat.zero_or, Nat.or_zero, Nat.sub_zero, Nat.add_mod_right, lane_eq,
        Machine.io_eq_get, Nat.xor_self, Loc.x.injEq, Loc.g.injEq, Loc.m.injEq,
        Bool.toNat_eq_zero, Bool.toNat_eq_one, Nat.reducePow, Nat.reduceMul,
        Nat.reduceMod, Nat.reduceAdd, Nat.reduceSub, Nat.reduceDiv, Nat.reduceEqDiff,
        Nat.reduceLTLE, Nat.reduceLeDiff, Nat.reduceLT, Nat.reduceGT, Nat.reduceOr,
        Nat.reduceXor, reduceCtorEq, Bool.not_eq_true', Bool.not_eq_true,
        decide_eq_true_eq, decide_eq_false_iff_not, Bool.and_eq_true, Bool.or_eq_true,
        bne_iff_ne, beq_iff_eq, ne_eq, Bool.not_eq_false', Bool.not_eq_false, decide_not,
        not_not, Bool.decide_eq_true, Bool.false_eq_true, Bool.true_eq_false,
        not_false_eq_true, not_true_eq_false, and_true, true_and, and_false, false_and,
        or_true, true_or, or_false, false_or, not_true, not_false_iff, iff_self, true_iff,
        iff_true, false_iff, iff_false, ite_self, decide_eq_decide, decide_False,
        decide_True, Bool.not_true, Bool.not_false]
    all_goals omega
  · set_option maxRecDepth 8000 in
    simp only [
        ↓reduceIte, xor_bit15, ↓fast_pow.pow_L_2TAG_PACKET_0_0_2_1_sem,
        ↓fast_pow.pow_B1_2_1_sem, ↓fast_pow.pow_start_1_sem, ↓fast_pow.pow_entry_1_sem,
        ↓Machine.get_setx, ↓Machine.get_setg, ↓Machine.get_setstk, ↓Machine.get_enter,
        ↓Machine.get_setFlags, ↓Machine.trace_set, ↓Machine.get_ite, ↓Machine.trace_ite,
        ↓Machine.obs_eq_get, ↓Machine.flags_get, ↓Machine.flags_trace, ↓sem_get_1,
        ↓sem_get_2, ↓sem_get_3, ↓sem_get_4, ↓sem_trace_1, ↓sem_trace_2, ↓sem_trace_3,
        ↓sem_trace_4, ↓load_const, cc_iff, ea, and_imm, and_imm_left, ilog2_lit,
        or_eq_zero, or_mod32, or_lt_2p31, Nat.mod_mod, Nat.zero_or, Nat.or_zero,
        Nat.sub_zero, Nat.add_mod_right, lane_eq, Machine.io_eq_get, Nat.xor_self,
        Loc.x.injEq, Loc.g.injEq, Loc.m.injEq, Bool.toNat_eq_zero, Bool.toNat_eq_one,
        Nat.reducePow, Nat.reduceMul, Nat.reduceMod, Nat.reduceAdd, Nat.reduceSub,
        Nat.reduceDiv, Nat.reduceEqDiff, Nat.reduceLTLE, Nat.reduceLeDiff, Nat.reduceLT,
        Nat.reduceGT, Nat.reduceOr, Nat.reduceXor, reduceCtorEq, Bool.not_eq_true',
        Bool.not_eq_true, decide_eq_true_eq, decide_eq_false_iff_not, Bool.and_eq_true,
        Bool.or_eq_true, bne_iff_ne, beq_iff_eq, ne_eq, Bool.not_eq_false',
        Bool.not_eq_false, decide_not, not_not, Bool.decide_eq_true, Bool.false_eq_true,
        Bool.true_eq_false, not_false_eq_true, not_true_eq_false, and_true, true_and,
        and_false, false_and, or_true, true_or, or_false, false_or, not_true,
        not_false_iff, iff_self, true_iff, iff_true, false_iff, iff_false, ite_self,
        decide_eq_decide, decide_False, decide_True, Bool.not_true, Bool.not_false]
    all_goals omega
  · set_option maxRecDepth 8000 in
    simp only [
        ↓reduceIte, xor_bit15, ↓fast_pow.pow_B1_2_1_sem, ↓fast_pow.pow_start_1_sem,
        ↓fast_pow.pow_entry_1_sem, ↓Machine.get_setx, ↓Machine.get_setg,
        ↓Machine.get_setstk, ↓Machine.get_enter, ↓Machine.get_setFlags,
        ↓Machine.trace_set, ↓Machine.get_ite, ↓Machine.trace_ite, ↓Machine.obs_eq_get,
        ↓Machine.flags_get, ↓Machine.flags_trace, ↓sem_get_1, ↓sem_get_2, ↓sem_get_3,
        ↓sem_get_4, ↓sem_trace_1, ↓sem_trace_2, ↓sem_trace_3, ↓sem_trace_4, ↓load_const,
        cc_iff, ea, and_imm, and_imm_left, ilog2_lit, or_eq_zero, or_mod32, or_lt_2p31,
        Nat.mod_mod, Nat.zero_or, Nat.or_zero, Nat.sub_zero, Nat.add_mod_right, lane_eq,
        Machine.io_eq_get, Nat.xor_self, Loc.x.injEq, Loc.g.injEq, Loc.m.injEq,
        Bool.toNat_eq_zero, Bool.toNat_eq_one, Nat.reducePow, Nat.reduceMul,
        Nat.reduceMod, Nat.reduceAdd, Nat.reduceSub, Nat.reduceDiv, Nat.reduceEqDiff,
        Nat.reduceLTLE, Nat.reduceLeDiff, Nat.reduceLT, Nat.reduceGT, Nat.reduceOr,
        Nat.reduceXor, reduceCtorEq, Bool.not_eq_true', Bool.not_eq_true,
        decide_eq_true_eq, decide_eq_false_iff_not, Bool.and_eq_true, Bool.or_eq_true,
        bne_iff_ne, beq_iff_eq, ne_eq, Bool.not_eq_false', Bool.not_eq_false, decide_not,
        not_not, Bool.decide_eq_true, Bool.false_eq_true, Bool.true_eq_false,
        not_false_eq_true, not_true_eq_false, and_true, true_and, and_false, false_and,
        or_true, true_or, or_false, false_or, not_true, not_false_iff, iff_self, true_iff,
        iff_true, false_iff, iff_false, ite_self, decide_eq_decide, decide_False,
        decide_True, Bool.not_true, Bool.not_false]
    all_goals omega

theorem fast_pow_neg_near_ninf_run (cpu : Cpu) (s : Machine)
    (h1 : 0xBFF0000000000000 < s.arg0) (h3 : s.arg0 / 2 ^ 48 = 49136)
    (hy : s.arg1 = 0xFFF0000000000000) :
    (fast_pow cpu s).result = 0 := by
  simp only [Machine.io_eq_get, Nat.reducePow] at h1 h3 hy
  rw [
      fast_pow, fast_pow.pow_entry_eq, fast_pow.pow_start_eq, fast_pow.pow_B1_2_eq, if_pos,
      fast_pow.pow_L_2TAG_PACKET_0_0_2_eq, if_neg, if_pos,
      fast_pow.pow_L_2TAG_PACKET_7_0_2_eq, if_neg, if_neg, if_pos,
      fast_pow.pow_L_2TAG_PACKET_28_0_2_eq, if_pos, fast_pow.pow_L_2TAG_PACKET_29_0_2_eq,
      if_neg, if_pos, fast_pow.pow_L_2TAG_PACKET_30_0_2_eq, if_neg, fast_pow.pow_B1_5_eq]
  · set_option maxRecDepth 8000 in
    simp only [
        ↓reduceIte, xor_bit15, ↓fast_pow.pow_B1_5_1_sem,
        ↓fast_pow.pow_L_2TAG_PACKET_30_0_2_2_sem,
        ↓fast_pow.pow_L_2TAG_PACKET_30_0_2_1_sem,
        ↓fast_pow.pow_L_2TAG_PACKET_29_0_2_2_sem,
        ↓fast_pow.pow_L_2TAG_PACKET_29_0_2_1_sem,
        ↓fast_pow.pow_L_2TAG_PACKET_28_0_2_1_sem, ↓fast_pow.pow_L_2TAG_PACKET_7_0_2_3_sem,
        ↓fast_pow.pow_L_2TAG_PACKET_7_0_2_2_sem, ↓fast_pow.pow_L_2TAG_PACKET_7_0_2_1_sem,
        ↓fast_pow.pow_L_2TAG_PACKET_0_0_2_2_sem, ↓fast_pow.pow_L_2TAG_PACKET_0_0_2_1_sem,
        ↓fast_pow.pow_B1_2_1_sem, ↓fast_pow.pow_start_1_sem, ↓fast_pow.pow_entry_1_sem,
        ↓Machine.get_setx, ↓Machine.get_setg, ↓Machine.get_setstk, ↓Machine.get_enter,
        ↓Machine.get_setFlags, ↓Machine.trace_set, ↓Machine.get_ite, ↓Machine.trace_ite,
        ↓Machine.obs_eq_get, ↓Machine.flags_get, ↓Machine.flags_trace, ↓sem_get_1,
        ↓sem_get_2, ↓sem_get_3, ↓sem_get_4, ↓sem_trace_1, ↓sem_trace_2, ↓sem_trace_3,
        ↓sem_trace_4, ↓load_const, cc_iff, ea, and_imm, and_imm_left, ilog2_lit,
        or_eq_zero, or_mod32, or_lt_2p31, Nat.mod_mod, Nat.zero_or, Nat.or_zero,
        Nat.sub_zero, Nat.add_mod_right, lane_eq, Machine.io_eq_get, Nat.xor_self,
        Loc.x.injEq, Loc.g.injEq, Loc.m.injEq, Bool.toNat_eq_zero, Bool.toNat_eq_one,
        Nat.reducePow, Nat.reduceMul, Nat.reduceMod, Nat.reduceAdd, Nat.reduceSub,
        Nat.reduceDiv, Nat.reduceEqDiff, Nat.reduceLTLE, Nat.reduceLeDiff, Nat.reduceLT,
        Nat.reduceGT, Nat.reduceOr, Nat.reduceXor, reduceCtorEq, Bool.not_eq_true',
        Bool.not_eq_true, decide_eq_true_eq, decide_eq_false_iff_not, Bool.and_eq_true,
        Bool.or_eq_true, bne_iff_ne, beq_iff_eq, ne_eq, Bool.not_eq_false',
        Bool.not_eq_false, decide_not, not_not, Bool.decide_eq_true, Bool.false_eq_true,
        Bool.true_eq_false, not_false_eq_true, not_true_eq_false, and_true, true_and,
        and_false, false_and, or_true, true_or, or_false, false_or, not_true,
        not_false_iff, iff_self, true_iff, iff_true, false_iff, iff_false, ite_self,
        decide_eq_decide, decide_False, decide_True, Bool.not_true, Bool.not_false]
  · set_option maxRecDepth 8000 in
    simp only [
        ↓reduceIte, xor_bit15, ↓fast_pow.pow_L_2TAG_PACKET_30_0_2_1_sem,
        ↓fast_pow.pow_L_2TAG_PACKET_29_0_2_2_sem,
        ↓fast_pow.pow_L_2TAG_PACKET_29_0_2_1_sem,
        ↓fast_pow.pow_L_2TAG_PACKET_28_0_2_1_sem, ↓fast_pow.pow_L_2TAG_PACKET_7_0_2_3_sem,
        ↓fast_pow.pow_L_2TAG_PACKET_7_0_2_2_sem, ↓fast_pow.pow_L_2TAG_PACKET_7_0_2_1_sem,
        ↓fast_pow.pow_L_2TAG_PACKET_0_0_2_2_sem, ↓fast_pow.pow_L_2TAG_PACKET_0_0_2_1_sem,
        ↓fast_pow.pow_B1_2_1_sem, ↓fast_pow.pow_start_1_sem, ↓fast_pow.pow_entry_1_sem,
        ↓Machine.get_setx, ↓Machine.get_setg, ↓Machine.get_setstk, ↓Machine.get_enter,
        ↓Machine.get_setFlags, ↓Machine.trace_set, ↓Machine.get_ite, ↓Machine.trace_ite,
        ↓Machine.obs_eq_get, ↓Machine.flags_get, ↓Machine.flags_trace, ↓sem_get_1,
        ↓sem_get_2, ↓sem_get_3, ↓sem_get_4, ↓sem_trace_1, ↓sem_trace_2, ↓sem_trace_3,
        ↓sem_trace_4, ↓load_const, cc_iff, ea, and_imm, and_imm_left, ilog2_lit,
        or_eq_zero, or_mod32, or_lt_2p31, Nat.mod_mod, Nat.zero_or, Nat.or_zero,
        Nat.sub_zero, Nat.add_mod_right, lane_eq, Machine.io_eq_get, Nat.xor_self,
        Loc.x.injEq, Loc.g.injEq, Loc.m.injEq, Bool.toNat_eq_zero, Bool.toNat_eq_one,
        Nat.reducePow, Nat.reduceMul, Nat.reduceMod, Nat.reduceAdd, Nat.reduceSub,
        Nat.reduceDiv, Nat.reduceEqDiff, Nat.reduceLTLE, Nat.reduceLeDiff, Nat.reduceLT,
        Nat.reduceGT, Nat.reduceOr, Nat.reduceXor, reduceCtorEq, Bool.not_eq_true',
        Bool.not_eq_true, decide_eq_true_eq, decide_eq_false_iff_not, Bool.and_eq_true,
        Bool.or_eq_true, bne_iff_ne, beq_iff_eq, ne_eq, Bool.not_eq_false',
        Bool.not_eq_false, decide_not, not_not, Bool.decide_eq_true, Bool.false_eq_true,
        Bool.true_eq_false, not_false_eq_true, not_true_eq_false, and_true, true_and,
        and_false, false_and, or_true, true_or, or_false, false_or, not_true,
        not_false_iff, iff_self, true_iff, iff_true, false_iff, iff_false, ite_self,
        decide_eq_decide, decide_False, decide_True, Bool.not_true, Bool.not_false]
    all_goals omega
  · set_option maxRecDepth 8000 in
    simp only [
        ↓reduceIte, xor_bit15, ↓fast_pow.pow_L_2TAG_PACKET_29_0_2_2_sem,
        ↓fast_pow.pow_L_2TAG_PACKET_29_0_2_1_sem,
        ↓fast_pow.pow_L_2TAG_PACKET_28_0_2_1_sem, ↓fast_pow.pow_L_2TAG_PACKET_7_0_2_3_sem,
        ↓fast_pow.pow_L_2TAG_PACKET_7_0_2_2_sem, ↓fast_pow.pow_L_2TAG_PACKET_7_0_2_1_sem,
        ↓fast_pow.pow_L_2TAG_PACKET_0_0_2_2_sem, ↓fast_pow.pow_L_2TAG_PACKET_0_0_2_1_sem,
        ↓fast_pow.pow_B1_2_1_sem, ↓fast_pow.pow_start_1_sem, ↓fast_pow.pow_entry_1_sem,
        ↓Machine.get_setx, ↓Machine.get_setg, ↓Machine.get_setstk, ↓Machine.get_enter,
        ↓Machine.get_setFlags, ↓Machine.trace_set, ↓Machine.get_ite, ↓Machine.trace_ite,
        ↓Machine.obs_eq_get, ↓Machine.flags_get, ↓Machine.flags_trace, ↓sem_get_1,
        ↓sem_get_2, ↓sem_get_3, ↓sem_get_4, ↓sem_trace_1, ↓sem_trace_2, ↓sem_trace_3,
        ↓sem_trace_4, ↓load_const, cc_iff, ea, and_imm, and_imm_left, ilog2_lit,
        or_eq_zero, or_mod32, or_lt_2p31, Nat.mod_mod, Nat.zero_or, Nat.or_zero,
        Nat.sub_zero, Nat.add_mod_right, lane_eq, Machine.io_eq_get, Nat.xor_self,
        Loc.x.injEq, Loc.g.injEq, Loc.m.injEq, Bool.toNat_eq_zero, Bool.toNat_eq_one,
        Nat.reducePow, Nat.reduceMul, Nat.reduceMod, Nat.reduceAdd, Nat.reduceSub,
        Nat.reduceDiv, Nat.reduceEqDiff, Nat.reduceLTLE, Nat.reduceLeDiff, Nat.reduceLT,
        Nat.reduceGT, Nat.reduceOr, Nat.reduceXor, reduceCtorEq, Bool.not_eq_true',
        Bool.not_eq_true, decide_eq_true_eq, decide_eq_false_iff_not, Bool.and_eq_true,
        Bool.or_eq_true, bne_iff_ne, beq_iff_eq, ne_eq, Bool.not_eq_false',
        Bool.not_eq_false, decide_not, not_not, Bool.decide_eq_true, Bool.false_eq_true,
        Bool.true_eq_false, not_false_eq_true, not_true_eq_false, and_true, true_and,
        and_false, false_and, or_true, true_or, or_false, false_or, not_true,
        not_false_iff, iff_self, true_iff, iff_true, false_iff, iff_false, ite_self,
        decide_eq_decide, decide_False, decide_True, Bool.not_true, Bool.not_false]
    all_goals omega
  · set_option maxRecDepth 8000 in
    simp only [
        ↓reduceIte, xor_bit15, ↓fast_pow.pow_L_2TAG_PACKET_29_0_2_1_sem,
        ↓fast_pow.pow_L_2TAG_PACKET_28_0_2_1_sem, ↓fast_pow.pow_L_2TAG_PACKET_7_0_2_3_sem,
        ↓fast_pow.pow_L_2TAG_PACKET_7_0_2_2_sem, ↓fast_pow.pow_L_2TAG_PACKET_7_0_2_1_sem,
        ↓fast_pow.pow_L_2TAG_PACKET_0_0_2_2_sem, ↓fast_pow.pow_L_2TAG_PACKET_0_0_2_1_sem,
        ↓fast_pow.pow_B1_2_1_sem, ↓fast_pow.pow_start_1_sem, ↓fast_pow.pow_entry_1_sem,
        ↓Machine.get_setx, ↓Machine.get_setg, ↓Machine.get_setstk, ↓Machine.get_enter,
        ↓Machine.get_setFlags, ↓Machine.trace_set, ↓Machine.get_ite, ↓Machine.trace_ite,
        ↓Machine.obs_eq_get, ↓Machine.flags_get, ↓Machine.flags_trace, ↓sem_get_1,
        ↓sem_get_2, ↓sem_get_3, ↓sem_get_4, ↓sem_trace_1, ↓sem_trace_2, ↓sem_trace_3,
        ↓sem_trace_4, ↓load_const, cc_iff, ea, and_imm, and_imm_left, ilog2_lit,
        or_eq_zero, or_mod32, or_lt_2p31, Nat.mod_mod, Nat.zero_or, Nat.or_zero,
        Nat.sub_zero, Nat.add_mod_right, lane_eq, Machine.io_eq_get, Nat.xor_self,
        Loc.x.injEq, Loc.g.injEq, Loc.m.injEq, Bool.toNat_eq_zero, Bool.toNat_eq_one,
        Nat.reducePow, Nat.reduceMul, Nat.reduceMod, Nat.reduceAdd, Nat.reduceSub,
        Nat.reduceDiv, Nat.reduceEqDiff, Nat.reduceLTLE, Nat.reduceLeDiff, Nat.reduceLT,
        Nat.reduceGT, Nat.reduceOr, Nat.reduceXor, reduceCtorEq, Bool.not_eq_true',
        Bool.not_eq_true, decide_eq_true_eq, decide_eq_false_iff_not, Bool.and_eq_true,
        Bool.or_eq_true, bne_iff_ne, beq_iff_eq, ne_eq, Bool.not_eq_false',
        Bool.not_eq_false, decide_not, not_not, Bool.decide_eq_true, Bool.false_eq_true,
        Bool.true_eq_false, not_false_eq_true, not_true_eq_false, and_true, true_and,
        and_false, false_and, or_true, true_or, or_false, false_or, not_true,
        not_false_iff, iff_self, true_iff, iff_true, false_iff, iff_false, ite_self,
        decide_eq_decide, decide_False, decide_True, Bool.not_true, Bool.not_false]
    all_goals omega
  · set_option maxRecDepth 8000 in
    simp only [
        ↓reduceIte, xor_bit15, ↓fast_pow.pow_L_2TAG_PACKET_28_0_2_1_sem,
        ↓fast_pow.pow_L_2TAG_PACKET_7_0_2_3_sem, ↓fast_pow.pow_L_2TAG_PACKET_7_0_2_2_sem,
        ↓fast_pow.pow_L_2TAG_PACKET_7_0_2_1_sem, ↓fast_pow.pow_L_2TAG_PACKET_0_0_2_2_sem,
        ↓fast_pow.pow_L_2TAG_PACKET_0_0_2_1_sem, ↓fast_pow.pow_B1_2_1_sem,
        ↓fast_pow.pow_start_1_sem, ↓fast_pow.pow_entry_1_sem, ↓Machine.get_setx,
        ↓Machine.get_setg, ↓Machine.get_setstk, ↓Machine.get_enter, ↓Machine.get_setFlags,
        ↓Machine.trace_set, ↓Machine.get_ite, ↓Machine.trace_ite, ↓Machine.obs_eq_get,
        ↓Machine.flags_get, ↓Machine.flags_trace, ↓sem_get_1, ↓sem_get_2, ↓sem_get_3,
        ↓sem_get_4, ↓sem_trace_1, ↓sem_trace_2, ↓sem_trace_3, ↓sem_trace_4, ↓load_const,
        cc_iff, ea, and_imm, and_imm_left, ilog2_lit, or_eq_zero, or_mod32, or_lt_2p31,
        Nat.mod_mod, Nat.zero_or, Nat.or_zero, Nat.sub_zero, Nat.add_mod_right, lane_eq,
        Machine.io_eq_get, Nat.xor_self, Loc.x.injEq, Loc.g.injEq, Loc.m.injEq,
        Bool.toNat_eq_zero, Bool.toNat_eq_one, Nat.reducePow, Nat.reduceMul,
        Nat.reduceMod, Nat.reduceAdd, Nat.reduceSub, Nat.reduceDiv, Nat.reduceEqDiff,
        Nat.reduceLTLE, Nat.reduceLeDiff, Nat.reduceLT, Nat.reduceGT, Nat.reduceOr,
        Nat.reduceXor, reduceCtorEq, Bool.not_eq_true', Bool.not_eq_true,
        decide_eq_true_eq, decide_eq_false_iff_not, Bool.and_eq_true, Bool.or_eq_true,
        bne_iff_ne, beq_iff_eq, ne_eq, Bool.not_eq_false', Bool.not_eq_false, decide_not,
        not_not, Bool.decide_eq_true, Bool.false_eq_true, Bool.true_eq_false,
        not_false_eq_true, not_true_eq_false, and_true, true_and, and_false, false_and,
        or_true, true_or, or_false, false_or, not_true, not_false_iff, iff_self, true_iff,
        iff_true, false_iff, iff_false, ite_self, decide_eq_decide, decide_False,
        decide_True, Bool.not_true, Bool.not_false]
    all_goals omega
  · set_option maxRecDepth 8000 in
    simp only [
        ↓reduceIte, xor_bit15, ↓fast_pow.pow_L_2TAG_PACKET_7_0_2_3_sem,
        ↓fast_pow.pow_L_2TAG_PACKET_7_0_2_2_sem, ↓fast_pow.pow_L_2TAG_PACKET_7_0_2_1_sem,
        ↓fast_pow.pow_L_2TAG_PACKET_0_0_2_2_sem, ↓fast_pow.pow_L_2TAG_PACKET_0_0_2_1_sem,
        ↓fast_pow.pow_B1_2_1_sem, ↓fast_pow.pow_start_1_sem, ↓fast_pow.pow_entry_1_sem,
        ↓Machine.get_setx, ↓Machine.get_setg, ↓Machine.get_setstk, ↓Machine.get_enter,
        ↓Machine.get_setFlags, ↓Machine.trace_set, ↓Machine.get_ite, ↓Machine.trace_ite,
        ↓Machine.obs_eq_get, ↓Machine.flags_get, ↓Machine.flags_trace, ↓sem_get_1,
        ↓sem_get_2, ↓sem_get_3, ↓sem_get_4, ↓sem_trace_1, ↓sem_trace_2, ↓sem_trace_3,
        ↓sem_trace_4, ↓load_const, cc_iff, ea, and_imm, and_imm_left, ilog2_lit,
        or_eq_zero, or_mod32, or_lt_2p31, Nat.mod_mod, Nat.zero_or, Nat.or_zero,
        Nat.sub_zero, Nat.add_mod_right, lane_eq, Machine.io_eq_get, Nat.xor_self,
        Loc.x.injEq, Loc.g.injEq, Loc.m.injEq, Bool.toNat_eq_zero, Bool.toNat_eq_one,
        Nat.reducePow, Nat.reduceMul, Nat.reduceMod, Nat.reduceAdd, Nat.reduceSub,
        Nat.reduceDiv, Nat.reduceEqDiff, Nat.reduceLTLE, Nat.reduceLeDiff, Nat.reduceLT,
        Nat.reduceGT, Nat.reduceOr, Nat.reduceXor, reduceCtorEq, Bool.not_eq_true',
        Bool.not_eq_true, decide_eq_true_eq, decide_eq_false_iff_not, Bool.and_eq_true,
        Bool.or_eq_true, bne_iff_ne, beq_iff_eq, ne_eq, Bool.not_eq_false',
        Bool.not_eq_false, decide_not, not_not, Bool.decide_eq_true, Bool.false_eq_true,
        Bool.true_eq_false, not_false_eq_true, not_true_eq_false, and_true, true_and,
        and_false, false_and, or_true, true_or, or_false, false_or, not_true,
        not_false_iff, iff_self, true_iff, iff_true, false_iff, iff_false, ite_self,
        decide_eq_decide, decide_False, decide_True, Bool.not_true, Bool.not_false]
    all_goals omega
  · set_option maxRecDepth 8000 in
    simp only [
        ↓reduceIte, xor_bit15, ↓fast_pow.pow_L_2TAG_PACKET_7_0_2_2_sem,
        ↓fast_pow.pow_L_2TAG_PACKET_7_0_2_1_sem, ↓fast_pow.pow_L_2TAG_PACKET_0_0_2_2_sem,
        ↓fast_pow.pow_L_2TAG_PACKET_0_0_2_1_sem, ↓fast_pow.pow_B1_2_1_sem,
        ↓fast_pow.pow_start_1_sem, ↓fast_pow.pow_entry_1_sem, ↓Machine.get_setx,
        ↓Machine.get_setg, ↓Machine.get_setstk, ↓Machine.get_enter, ↓Machine.get_setFlags,
        ↓Machine.trace_set, ↓Machine.get_ite, ↓Machine.trace_ite, ↓Machine.obs_eq_get,
        ↓Machine.flags_get, ↓Machine.flags_trace, ↓sem_get_1, ↓sem_get_2, ↓sem_get_3,
        ↓sem_get_4, ↓sem_trace_1, ↓sem_trace_2, ↓sem_trace_3, ↓sem_trace_4, ↓load_const,
        cc_iff, ea, and_imm, and_imm_left, ilog2_lit, or_eq_zero, or_mod32, or_lt_2p31,
        Nat.mod_mod, Nat.zero_or, Nat.or_zero, Nat.sub_zero, Nat.add_mod_right, lane_eq,
        Machine.io_eq_get, Nat.xor_self, Loc.x.injEq, Loc.g.injEq, Loc.m.injEq,
        Bool.toNat_eq_zero, Bool.toNat_eq_one, Nat.reducePow, Nat.reduceMul,
        Nat.reduceMod, Nat.reduceAdd, Nat.reduceSub, Nat.reduceDiv, Nat.reduceEqDiff,
        Nat.reduceLTLE, Nat.reduceLeDiff, Nat.reduceLT, Nat.reduceGT, Nat.reduceOr,
        Nat.reduceXor, reduceCtorEq, Bool.not_eq_true', Bool.not_eq_true,
        decide_eq_true_eq, decide_eq_false_iff_not, Bool.and_eq_true, Bool.or_eq_true,
        bne_iff_ne, beq_iff_eq, ne_eq, Bool.not_eq_false', Bool.not_eq_false, decide_not,
        not_not, Bool.decide_eq_true, Bool.false_eq_true, Bool.true_eq_false,
        not_false_eq_true, not_true_eq_false, and_true, true_and, and_false, false_and,
        or_true, true_or, or_false, false_or, not_true, not_false_iff, iff_self, true_iff,
        iff_true, false_iff, iff_false, ite_self, decide_eq_decide, decide_False,
        decide_True, Bool.not_true, Bool.not_false]
    all_goals omega
  · set_option maxRecDepth 8000 in
    simp only [
        ↓reduceIte, xor_bit15, ↓fast_pow.pow_L_2TAG_PACKET_7_0_2_1_sem,
        ↓fast_pow.pow_L_2TAG_PACKET_0_0_2_2_sem, ↓fast_pow.pow_L_2TAG_PACKET_0_0_2_1_sem,
        ↓fast_pow.pow_B1_2_1_sem, ↓fast_pow.pow_start_1_sem, ↓fast_pow.pow_entry_1_sem,
        ↓Machine.get_setx, ↓Machine.get_setg, ↓Machine.get_setstk, ↓Machine.get_enter,
        ↓Machine.get_setFlags, ↓Machine.trace_set, ↓Machine.get_ite, ↓Machine.trace_ite,
        ↓Machine.obs_eq_get, ↓Machine.flags_get, ↓Machine.flags_trace, ↓sem_get_1,
        ↓sem_get_2, ↓sem_get_3, ↓sem_get_4, ↓sem_trace_1, ↓sem_trace_2, ↓sem_trace_3,
        ↓sem_trace_4, ↓load_const, cc_iff, ea, and_imm, and_imm_left, ilog2_lit,
        or_eq_zero, or_mod32, or_lt_2p31, Nat.mod_mod, Nat.zero_or, Nat.or_zero,
        Nat.sub_zero, Nat.add_mod_right, lane_eq, Machine.io_eq_get, Nat.xor_self,
        Loc.x.injEq, Loc.g.injEq, Loc.m.injEq, Bool.toNat_eq_zero, Bool.toNat_eq_one,
        Nat.reducePow, Nat.reduceMul, Nat.reduceMod, Nat.reduceAdd, Nat.reduceSub,
        Nat.reduceDiv, Nat.reduceEqDiff, Nat.reduceLTLE, Nat.reduceLeDiff, Nat.reduceLT,
        Nat.reduceGT, Nat.reduceOr, Nat.reduceXor, reduceCtorEq, Bool.not_eq_true',
        Bool.not_eq_true, decide_eq_true_eq, decide_eq_false_iff_not, Bool.and_eq_true,
        Bool.or_eq_true, bne_iff_ne, beq_iff_eq, ne_eq, Bool.not_eq_false',
        Bool.not_eq_false, decide_not, not_not, Bool.decide_eq_true, Bool.false_eq_true,
        Bool.true_eq_false, not_false_eq_true, not_true_eq_false, and_true, true_and,
        and_false, false_and, or_true, true_or, or_false, false_or, not_true,
        not_false_iff, iff_self, true_iff, iff_true, false_iff, iff_false, ite_self,
        decide_eq_decide, decide_False, decide_True, Bool.not_true, Bool.not_false]
    all_goals omega
  · set_option maxRecDepth 8000 in
    simp only [
        ↓reduceIte, xor_bit15, ↓fast_pow.pow_L_2TAG_PACKET_0_0_2_2_sem,
        ↓fast_pow.pow_L_2TAG_PACKET_0_0_2_1_sem, ↓fast_pow.pow_B1_2_1_sem,
        ↓fast_pow.pow_start_1_sem, ↓fast_pow.pow_entry_1_sem, ↓Machine.get_setx,
        ↓Machine.get_setg, ↓Machine.get_setstk, ↓Machine.get_enter, ↓Machine.get_setFlags,
        ↓Machine.trace_set, ↓Machine.get_ite, ↓Machine.trace_ite, ↓Machine.obs_eq_get,
        ↓Machine.flags_get, ↓Machine.flags_trace, ↓sem_get_1, ↓sem_get_2, ↓sem_get_3,
        ↓sem_get_4, ↓sem_trace_1, ↓sem_trace_2, ↓sem_trace_3, ↓sem_trace_4, ↓load_const,
        cc_iff, ea, and_imm, and_imm_left, ilog2_lit, or_eq_zero, or_mod32, or_lt_2p31,
        Nat.mod_mod, Nat.zero_or, Nat.or_zero, Nat.sub_zero, Nat.add_mod_right, lane_eq,
        Machine.io_eq_get, Nat.xor_self, Loc.x.injEq, Loc.g.injEq, Loc.m.injEq,
        Bool.toNat_eq_zero, Bool.toNat_eq_one, Nat.reducePow, Nat.reduceMul,
        Nat.reduceMod, Nat.reduceAdd, Nat.reduceSub, Nat.reduceDiv, Nat.reduceEqDiff,
        Nat.reduceLTLE, Nat.reduceLeDiff, Nat.reduceLT, Nat.reduceGT, Nat.reduceOr,
        Nat.reduceXor, reduceCtorEq, Bool.not_eq_true', Bool.not_eq_true,
        decide_eq_true_eq, decide_eq_false_iff_not, Bool.and_eq_true, Bool.or_eq_true,
        bne_iff_ne, beq_iff_eq, ne_eq, Bool.not_eq_false', Bool.not_eq_false, decide_not,
        not_not, Bool.decide_eq_true, Bool.false_eq_true, Bool.true_eq_false,
        not_false_eq_true, not_true_eq_false, and_true, true_and, and_false, false_and,
        or_true, true_or, or_false, false_or, not_true, not_false_iff, iff_self, true_iff,
        iff_true, false_iff, iff_false, ite_self, decide_eq_decide, decide_False,
        decide_True, Bool.not_true, Bool.not_false]
    all_goals omega
  · set_option maxRecDepth 8000 in
    simp only [
        ↓reduceIte, xor_bit15, ↓fast_pow.pow_L_2TAG_PACKET_0_0_2_1_sem,
        ↓fast_pow.pow_B1_2_1_sem, ↓fast_pow.pow_start_1_sem, ↓fast_pow.pow_entry_1_sem,
        ↓Machine.get_setx, ↓Machine.get_setg, ↓Machine.get_setstk, ↓Machine.get_enter,
        ↓Machine.get_setFlags, ↓Machine.trace_set, ↓Machine.get_ite, ↓Machine.trace_ite,
        ↓Machine.obs_eq_get, ↓Machine.flags_get, ↓Machine.flags_trace, ↓sem_get_1,
        ↓sem_get_2, ↓sem_get_3, ↓sem_get_4, ↓sem_trace_1, ↓sem_trace_2, ↓sem_trace_3,
        ↓sem_trace_4, ↓load_const, cc_iff, ea, and_imm, and_imm_left, ilog2_lit,
        or_eq_zero, or_mod32, or_lt_2p31, Nat.mod_mod, Nat.zero_or, Nat.or_zero,
        Nat.sub_zero, Nat.add_mod_right, lane_eq, Machine.io_eq_get, Nat.xor_self,
        Loc.x.injEq, Loc.g.injEq, Loc.m.injEq, Bool.toNat_eq_zero, Bool.toNat_eq_one,
        Nat.reducePow, Nat.reduceMul, Nat.reduceMod, Nat.reduceAdd, Nat.reduceSub,
        Nat.reduceDiv, Nat.reduceEqDiff, Nat.reduceLTLE, Nat.reduceLeDiff, Nat.reduceLT,
        Nat.reduceGT, Nat.reduceOr, Nat.reduceXor, reduceCtorEq, Bool.not_eq_true',
        Bool.not_eq_true, decide_eq_true_eq, decide_eq_false_iff_not, Bool.and_eq_true,
        Bool.or_eq_true, bne_iff_ne, beq_iff_eq, ne_eq, Bool.not_eq_false',
        Bool.not_eq_false, decide_not, not_not, Bool.decide_eq_true, Bool.false_eq_true,
        Bool.true_eq_false, not_false_eq_true, not_true_eq_false, and_true, true_and,
        and_false, false_and, or_true, true_or, or_false, false_or, not_true,
        not_false_iff, iff_self, true_iff, iff_true, false_iff, iff_false, ite_self,
        decide_eq_decide, decide_False, decide_True, Bool.not_true, Bool.not_false]
    all_goals omega
  · set_option maxRecDepth 8000 in
    simp only [
        ↓reduceIte, xor_bit15, ↓fast_pow.pow_B1_2_1_sem, ↓fast_pow.pow_start_1_sem,
        ↓fast_pow.pow_entry_1_sem, ↓Machine.get_setx, ↓Machine.get_setg,
        ↓Machine.get_setstk, ↓Machine.get_enter, ↓Machine.get_setFlags,
        ↓Machine.trace_set, ↓Machine.get_ite, ↓Machine.trace_ite, ↓Machine.obs_eq_get,
        ↓Machine.flags_get, ↓Machine.flags_trace, ↓sem_get_1, ↓sem_get_2, ↓sem_get_3,
        ↓sem_get_4, ↓sem_trace_1, ↓sem_trace_2, ↓sem_trace_3, ↓sem_trace_4, ↓load_const,
        cc_iff, ea, and_imm, and_imm_left, ilog2_lit, or_eq_zero, or_mod32, or_lt_2p31,
        Nat.mod_mod, Nat.zero_or, Nat.or_zero, Nat.sub_zero, Nat.add_mod_right, lane_eq,
        Machine.io_eq_get, Nat.xor_self, Loc.x.injEq, Loc.g.injEq, Loc.m.injEq,
        Bool.toNat_eq_zero, Bool.toNat_eq_one, Nat.reducePow, Nat.reduceMul,
        Nat.reduceMod, Nat.reduceAdd, Nat.reduceSub, Nat.reduceDiv, Nat.reduceEqDiff,
        Nat.reduceLTLE, Nat.reduceLeDiff, Nat.reduceLT, Nat.reduceGT, Nat.reduceOr,
        Nat.reduceXor, reduceCtorEq, Bool.not_eq_true', Bool.not_eq_true,
        decide_eq_true_eq, decide_eq_false_iff_not, Bool.and_eq_true, Bool.or_eq_true,
        bne_iff_ne, beq_iff_eq, ne_eq, Bool.not_eq_false', Bool.not_eq_false, decide_not,
        not_not, Bool.decide_eq_true, Bool.false_eq_true, Bool.true_eq_false,
        not_false_eq_true, not_true_eq_false, and_true, true_and, and_false, false_and,
        or_true, true_or, or_false, false_or, not_true, not_false_iff, iff_self, true_iff,
        iff_true, false_iff, iff_false, ite_self, decide_eq_decide, decide_False,
        decide_True, Bool.not_true, Bool.not_false]
    all_goals omega

theorem fast_pow_inf_pos_run (cpu : Cpu) (s : Machine)
    (h0 : 0 < s.arg0) (hx : s.arg0 < 0x7FF0000000000000)
    (hy : s.arg1 = 0x7FF0000000000000 ∨ s.arg1 = 0xFFF0000000000000) :
    (fast_pow cpu s).result = if s.arg0 = 0x3FF0000000000000 then 0x7FF8000000000000
      else if (0x3FF0000000000000 < s.arg0 ↔ s.arg1 = 0x7FF0000000000000) then
        0x7FF0000000000000 else 0 := by
  have hy2 : s.arg1 / 2 ^ 52 % 2048 = 2047 := by
    rcases hy with e | e <;> rw [e] <;> decide
  have hlt := arg0_lt s
  have hlt1 := arg1_lt s
  have hpre : ∃ t, fast_pow cpu s = fast_pow.L_2TAG_PACKET_45_0_2 cpu t ∧
      t.get (.m 8) = s.arg0 ∧ t.get (.m 16) = s.arg1 := by
    rcases Nat.lt_or_ge (s.arg0 / 2 ^ 48) 16 with ha | ha
    · exact pow_to_L45_denormal cpu s h0 ha hy2
    · by_cases hc : s.arg0 / 2 ^ 48 = 16367 ∨ s.arg0 / 2 ^ 48 = 16368
      · exact pow_to_L45_near_one cpu s hc hy2
      · exact pow_to_L45_normal cpu s ha (by omega) (fun h => hc (Or.inl h))
          (fun h => hc (Or.inr h)) hy2
  obtain ⟨t, ht, h8, h16⟩ := hpre
  have e8 : t.get (.m 8) % 2 ^ 64 = s.arg0 := by
    rw [h8]
    exact Nat.mod_eq_of_lt hlt
  have e16 : t.get (.m 16) % 2 ^ 64 = s.arg1 := by
    rw [h16]
    exact Nat.mod_eq_of_lt hlt1
  rw [ht]
  by_cases h1 : s.arg0 = 0x3FF0000000000000
  · rw [if_pos h1]
    exact pow_L45_one cpu t (e8.trans h1)
  · rw [if_neg h1]
    by_cases hg : 0x3FF0000000000000 < s.arg0 ↔ s.arg1 = 0x7FF0000000000000
    · rw [if_pos hg]
      refine pow_L45_inf_grow cpu t ?_ ?_ ?_ ?_
      · rw [e8]
        exact hx
      · rw [e16]
        exact hy
      · rw [e8, e16]
        exact hg
      · rw [e8]
        exact h1
    · rw [if_neg hg]
      refine pow_L45_inf_decay cpu t ?_ ?_ ?_ ?_
      · rw [e8]
        exact hx
      · rw [e16]
        exact hy
      · rw [e8, e16]
        omega
      · rw [e8]
        exact h1

theorem fast_pow_inf_run (cpu : Cpu) (s : Machine) (hx : f64IsNaN s.arg0 = false)
    (hy : s.arg1 = 0x7FF0000000000000 ∨ s.arg1 = 0xFFF0000000000000) :
    (fast_pow cpu s).result = if f64Abs s.arg0 = 0x3FF0000000000000 then 0x7FF8000000000000
      else if (0x3FF0000000000000 < f64Abs s.arg0 ↔ s.arg1 = 0x7FF0000000000000) then
        0x7FF0000000000000 else 0 := by
  have hlt := arg0_lt s
  simp only [f64IsNaN, f64Exp, f64Man, decide_eq_false_iff_not, Nat.reducePow] at hx
  simp only [f64Abs, Nat.reducePow]
  rcases Nat.lt_or_ge s.arg0 0x8000000000000000 with hs | hs
  · have ea : s.arg0 % 9223372036854775808 = s.arg0 := Nat.mod_eq_of_lt hs
    simp only [ea]
    rcases Nat.eq_zero_or_pos s.arg0 with h0 | h0
    · rcases hy with e | e
      · rw [fast_pow_pzero_pinf_run cpu s h0 e]
        split_ifs <;> omega
      · rw [fast_pow_pzero_ninf_run cpu s h0 e]
        split_ifs <;> omega
    rcases Nat.lt_or_ge s.arg0 0x7FF0000000000000 with hb | hb
    · exact fast_pow_inf_pos_run cpu s h0 hb hy
    · have hi : s.arg0 = 0x7FF0000000000000 := by omega
      rcases hy with e | e
      · rw [fast_pow_pinf_pinf_run cpu s hi e]
        split_ifs <;> omega
      · rw [fast_pow_pinf_ninf_run cpu s hi e]
        split_ifs <;> omega
  · have ea : s.arg0 % 9223372036854775808 = s.arg0 - 9223372036854775808 := by omega
    simp only [ea]
    rcases Nat.eq_or_lt_of_le hs with he | he
    · rcases hy with e | e
      · rw [fast_pow_nzero_pinf_run cpu s he.symm e]
        split_ifs <;> omega
      · rw [fast_pow_nzero_ninf_run cpu s he.symm e]
        split_ifs <;> omega
    rcases Nat.lt_or_ge s.arg0 0xFFF0000000000000 with hb | hb
    · by_cases h1 : s.arg0 = 0xBFF0000000000000
      · rw [fast_pow_neg_one_inf_run cpu s h1 hy]
        split_ifs <;> omega
      by_cases h3 : s.arg0 / 2 ^ 48 = 49136
      · rcases hy with e | e
        · rw [fast_pow_neg_near_pinf_run cpu s (by omega) h3 e]
          split_ifs <;> omega
        · rw [fast_pow_neg_near_ninf_run cpu s (by omega) h3 e]
          split_ifs <;> omega
      · by_cases hg : 0xBFF0000000000000 < s.arg0 ↔ s.arg1 = 0x7FF0000000000000
        · rw [fast_pow_neg_inf_grow_run cpu s he hb h3 hy hg]
          split_ifs <;> omega
        · rw [fast_pow_neg_inf_decay_run cpu s he hb h3 hy (by omega)]
          split_ifs <;> omega
    · have hi : s.arg0 = 0xFFF0000000000000 := by omega
      rcases hy with e | e
      · rw [fast_pow_ninf_pinf_run cpu s hi e]
        split_ifs <;> omega
      · rw [fast_pow_ninf_ninf_run cpu s hi e]
        split_ifs <;> omega

/-- C5: for every `x` that is not a NaN and `y = ±Inf`: `fast_pow(x, -Inf)` is `+Inf` when
`|x| < 1` and `+0` when `|x| > 1`; `fast_pow(x, +Inf)` is `+0` when `|x| < 1` and `+Inf` when
`|x| > 1`; and for `|x| = 1` the result is a NaN (the pattern `0x7FF8000000000000`). -/
theorem fast_pow_inf_exponent (cpu : Cpu) (s : Machine) (hx : f64IsNaN s.arg0 = false)
    (hy : s.arg1 = 0x7FF0000000000000 ∨ s.arg1 = 0xFFF0000000000000) :
    (f64Abs s.arg0 < 0x3FF0000000000000 → s.arg1 = 0xFFF0000000000000 →
      (fast_pow cpu s).result = 0x7FF0000000000000) ∧
    (0x3FF0000000000000 < f64Abs s.arg0 → s.arg1 = 0xFFF0000000000000 →
      (fast_pow cpu s).result = 0) ∧
    (f64Abs s.arg0 < 0x3FF0000000000000 → s.arg1 = 0x7FF0000000000000 →
      (fast_pow cpu s).result = 0) ∧
    (0x3FF0000000000000 < f64Abs s.arg0 → s.arg1 = 0x7FF0000000000000 →
      (fast_pow cpu s).result = 0x7FF0000000000000) ∧
    (f64Abs s.arg0 = 0x3FF0000000000000 →
      (fast_pow cpu s).result = 0x7FF8000000000000 ∧
      f64IsNaN (fast_pow cpu s).result = true) := by
  have key := fast_pow_inf_run cpu s hx hy
  refine ⟨?_, ?_, ?_, ?_, ?_⟩
  · intro h1 h2
    rw [key]
    split_ifs <;> omega
  · intro h1 h2
    rw [key]
    split_ifs <;> omega
  · intro h1 h2
    rw [key]
    split_ifs <;> omega
  · intro h1 h2
    rw [key]
    split_ifs <;> omega
  · intro h1
    rw [key, if_pos h1]
    exact ⟨rfl, by decide⟩

theorem fast_pow_inf_exponent_witness :
    (f64IsNaN (Machine.init 0x3FE0000000000000 0xFFF0000000000000).arg0 = false ∧
      (Machine.init 0x3FE0000000000000 0xFFF0000000000000).arg1 = 0xFFF0000000000000 ∧
      f64Abs (Machine.init 0x3FE0000000000000 0xFFF0000000000000).arg0 <
        0x3FF0000000000000) ∧
    (fast_pow Cpu.sample (Machine.init 0x3FE0000000000000 0xFFF0000000000000)).result =
      0x7FF0000000000000 :=
  ⟨by decide, (fast_pow_inf_exponent Cpu.sample
    (Machine.init 0x3FE0000000000000 0xFFF0000000000000) (by decide) (by decide)).1
    (by decide) (by decide)⟩

end MacroAssembler

namespace MacroAssembler
open XReg GReg Machine

/-! ### `fast_pow` of NaN operands -/

theorem fast_pow_nan_x_run (cpu : Cpu) (s : Machine) (hx : f64IsNaN s.arg0 = true)
    (h0 : f64IsZero s.arg1 = false) :
    (fast_pow cpu s).result = f64Quiet s.arg0 := by
  have hn := hx
  simp only [Machine.io_eq_get, Nat.reducePow] at hn
  simp only [f64IsNaN, f64IsZero, f64Exp, f64Man, decide_eq_true_eq, decide_eq_false_iff_not,
    Machine.io_eq_get, Nat.reducePow] at hx h0
  rw [
      fast_pow, fast_pow.pow_entry_eq, fast_pow.pow_start_eq, fast_pow.pow_B1_2_eq, if_pos,
      fast_pow.pow_L_2TAG_PACKET_0_0_2_eq, if_pos, fast_pow.pow_L_2TAG_PACKET_6_0_2_eq,
      if_neg, if_neg, fast_pow.pow_B1_5_eq]
  · set_option maxRecDepth 8000 in
    simp only [
        ↓reduceIte, Nat.mod_mod, ↓fast_pow.pow_B1_5_1_sem,
        ↓fast_pow.pow_L_2TAG_PACKET_6_0_2_3_sem, ↓fast_pow.pow_L_2TAG_PACKET_6_0_2_2_sem,
        ↓fast_pow.pow_L_2TAG_PACKET_6_0_2_1_sem, ↓fast_pow.pow_L_2TAG_PACKET_0_0_2_1_sem,
        ↓fast_pow.pow_B1_2_1_sem, ↓fast_pow.pow_start_1_sem, ↓fast_pow.pow_entry_1_sem,
        ↓Machine.get_setx, ↓Machine.get_setg, ↓Machine.get_setstk, ↓Machine.get_enter,
        ↓Machine.get_setFlags, ↓Machine.trace_set, ↓Machine.get_ite, ↓Machine.trace_ite,
        ↓Machine.obs_eq_get, ↓Machine.flags_get, ↓Machine.flags_trace, ↓sem_get_1,
        ↓sem_get_2, ↓sem_get_3, ↓sem_get_4, ↓sem_trace_1, ↓sem_trace_2, ↓sem_trace_3,
        ↓sem_trace_4, ↓load_const, cc_iff, ea, and_imm, and_imm_left, ilog2_lit,
        or_eq_zero, or_mod32, or_lt_2p31, Nat.mod_mod, Nat.zero_or, Nat.or_zero,
        Nat.sub_zero, Nat.add_mod_right, lane_eq, Machine.io_eq_get, Nat.xor_self,
        Loc.x.injEq, Loc.g.injEq, Loc.m.injEq, Bool.toNat_eq_zero, Bool.toNat_eq_one,
        Nat.reducePow, Nat.reduceMul, Nat.reduceMod, Nat.reduceAdd, Nat.reduceSub,
        Nat.reduceDiv, Nat.reduceEqDiff, Nat.reduceLTLE, Nat.reduceLeDiff, Nat.reduceLT,
        Nat.reduceGT, Nat.reduceOr, Nat.reduceXor, reduceCtorEq, Bool.not_eq_true',
        Bool.not_eq_true, decide_eq_true_eq, decide_eq_false_iff_not, Bool.and_eq_true,
        Bool.or_eq_true, bne_iff_ne, beq_iff_eq, ne_eq, Bool.not_eq_false',
        Bool.not_eq_false, decide_not, not_not, Bool.decide_eq_true, Bool.false_eq_true,
        Bool.true_eq_false, not_false_eq_true, not_true_eq_false, and_true, true_and,
        and_false, false_and, or_true, true_or, or_false, false_or, not_true,
        not_false_iff, iff_self, true_iff, iff_true, false_iff, iff_false, ite_self,
        decide_eq_decide, decide_False, decide_True, Bool.not_true, Bool.not_false]
    rw [f64Add_of_isNaN _ _ hn]
    have := f64Quiet_lt (s.get (.x xmm0) % 18446744073709551616) (by omega)
    all_goals omega
  · set_option maxRecDepth 8000 in
    simp only [
        ↓reduceIte, ↓fast_pow.pow_L_2TAG_PACKET_6_0_2_2_sem,
        ↓fast_pow.pow_L_2TAG_PACKET_6_0_2_1_sem, ↓fast_pow.pow_L_2TAG_PACKET_0_0_2_1_sem,
        ↓fast_pow.pow_B1_2_1_sem, ↓fast_pow.pow_start_1_sem, ↓fast_pow.pow_entry_1_sem,
        ↓Machine.get_setx, ↓Machine.get_setg, ↓Machine.get_setstk, ↓Machine.get_enter,
        ↓Machine.get_setFlags, ↓Machine.trace_set, ↓Machine.get_ite, ↓Machine.trace_ite,
        ↓Machine.obs_eq_get, ↓Machine.flags_get, ↓Machine.flags_trace, ↓sem_get_1,
        ↓sem_get_2, ↓sem_get_3, ↓sem_get_4, ↓sem_trace_1, ↓sem_trace_2, ↓sem_trace_3,
        ↓sem_trace_4, ↓load_const, cc_iff, ea, and_imm, and_imm_left, ilog2_lit,
        or_eq_zero, or_mod32, or_lt_2p31, Nat.mod_mod, Nat.zero_or, Nat.or_zero,
        Nat.sub_zero, Nat.add_mod_right, lane_eq, Machine.io_eq_get, Nat.xor_self,
        Loc.x.injEq, Loc.g.injEq, Loc.m.injEq, Bool.toNat_eq_zero, Bool.toNat_eq_one,
        Nat.reducePow, Nat.reduceMul, Nat.reduceMod, Nat.reduceAdd, Nat.reduceSub,
        Nat.reduceDiv, Nat.reduceEqDiff, Nat.reduceLTLE, Nat.reduceLeDiff, Nat.reduceLT,
        Nat.reduceGT, Nat.reduceOr, Nat.reduceXor, reduceCtorEq, Bool.not_eq_true',
        Bool.not_eq_true, decide_eq_true_eq, decide_eq_false_iff_not, Bool.and_eq_true,
        Bool.or_eq_true, bne_iff_ne, beq_iff_eq, ne_eq, Bool.not_eq_false',
        Bool.not_eq_false, decide_not, not_not, Bool.decide_eq_true, Bool.false_eq_true,
        Bool.true_eq_false, not_false_eq_true, not_true_eq_false, and_true, true_and,
        and_false, false_and, or_true, true_or, or_false, false_or, not_true,
        not_false_iff, iff_self, true_iff, iff_true, false_iff, iff_false, ite_self,
        decide_eq_decide, decide_False, decide_True, Bool.not_true, Bool.not_false]
    all_goals omega
  · set_option maxRecDepth 8000 in
    simp only [
        ↓reduceIte, ↓fast_pow.pow_L_2TAG_PACKET_6_0_2_1_sem,
        ↓fast_pow.pow_L_2TAG_PACKET_0_0_2_1_sem, ↓fast_pow.pow_B1_2_1_sem,
        ↓fast_pow.pow_start_1_sem, ↓fast_pow.pow_entry_1_sem, ↓Machine.get_setx,
        ↓Machine.get_setg, ↓Machine.get_setstk, ↓Machine.get_enter, ↓Machine.get_setFlags,
        ↓Machine.trace_set, ↓Machine.get_ite, ↓Machine.trace_ite, ↓Machine.obs_eq_get,
        ↓Machine.flags_get, ↓Machine.flags_trace, ↓sem_get_1, ↓sem_get_2, ↓sem_get_3,
        ↓sem_get_4, ↓sem_trace_1, ↓sem_trace_2, ↓sem_trace_3, ↓sem_trace_4, ↓load_const,
        cc_iff, ea, and_imm, and_imm_left, ilog2_lit, or_eq_zero, or_mod32, or_lt_2p31,
        Nat.mod_mod, Nat.zero_or, Nat.or_zero, Nat.sub_zero, Nat.add_mod_right, lane_eq,
        Machine.io_eq_get, Nat.xor_self, Loc.x.injEq, Loc.g.injEq, Loc.m.injEq,
        Bool.toNat_eq_zero, Bool.toNat_eq_one, Nat.reducePow, Nat.reduceMul,
        Nat.reduceMod, Nat.reduceAdd, Nat.reduceSub, Nat.reduceDiv, Nat.reduceEqDiff,
        Nat.reduceLTLE, Nat.reduceLeDiff, Nat.reduceLT, Nat.reduceGT, Nat.reduceOr,
        Nat.reduceXor, reduceCtorEq, Bool.not_eq_true', Bool.not_eq_true,
        decide_eq_true_eq, decide_eq_false_iff_not, Bool.and_eq_true, Bool.or_eq_true,
        bne_iff_ne, beq_iff_eq, ne_eq, Bool.not_eq_false', Bool.not_eq_false, decide_not,
        not_not, Bool.decide_eq_true, Bool.false_eq_true, Bool.true_eq_false,
        not_false_eq_true, not_true_eq_false, and_true, true_and, and_false, false_and,
        or_true, true_or, or_false, false_or, not_true, not_false_iff, iff_self, true_iff,
        iff_true, false_iff, iff_false, ite_self, decide_eq_decide, decide_False,
        decide_True, Bool.not_true, Bool.not_false]
    all_goals omega
  · set_option maxRecDepth 8000 in
    simp only [
        ↓reduceIte, ↓fast_pow.pow_L_2TAG_PACKET_0_0_2_1_sem, ↓fast_pow.pow_B1_2_1_sem,
        ↓fast_pow.pow_start_1_sem, ↓fast_pow.pow_entry_1_sem, ↓Machine.get_setx,
        ↓Machine.get_setg, ↓Machine.get_setstk, ↓Machine.get_enter, ↓Machine.get_setFlags,
        ↓Machine.trace_set, ↓Machine.get_ite, ↓Machine.trace_ite, ↓Machine.obs_eq_get,
        ↓Machine.flags_get, ↓Machine.flags_trace, ↓sem_get_1, ↓sem_get_2, ↓sem_get_3,
        ↓sem_get_4, ↓sem_trace_1, ↓sem_trace_2, ↓sem_trace_3, ↓sem_trace_4, ↓load_const,
        cc_iff, ea, and_imm, and_imm_left, ilog2_lit, or_eq_zero, or_mod32, or_lt_2p31,
        Nat.mod_mod, Nat.zero_or, Nat.or_zero, Nat.sub_zero, Nat.add_mod_right, lane_eq,
        Machine.io_eq_get, Nat.xor_self, Loc.x.injEq, Loc.g.injEq, Loc.m.injEq,
        Bool.toNat_eq_zero, Bool.toNat_eq_one, Nat.reducePow, Nat.reduceMul,
        Nat.reduceMod, Nat.reduceAdd, Nat.reduceSub, Nat.reduceDiv, Nat.reduceEqDiff,
        Nat.reduceLTLE, Nat.reduceLeDiff, Nat.reduceLT, Nat.reduceGT, Nat.reduceOr,
        Nat.reduceXor, reduceCtorEq, Bool.not_eq_true', Bool.not_eq_true,
        decide_eq_true_eq, decide_eq_false_iff_not, Bool.and_eq_true, Bool.or_eq_true,
        bne_iff_ne, beq_iff_eq, ne_eq, Bool.not_eq_false', Bool.not_eq_false, decide_not,
        not_not, Bool.decide_eq_true, Bool.false_eq_true, Bool.true_eq_false,
        not_false_eq_true, not_true_eq_false, and_true, true_and, and_false, false_and,
        or_true, true_or, or_false, false_or, not_true, not_false_iff, iff_self, true_iff,
        iff_true, false_iff, iff_false, ite_self, decide_eq_decide, decide_False,
        decide_True, Bool.not_true, Bool.not_false]
    all_goals omega
  · set_option maxRecDepth 8000 in
    simp only [
        ↓reduceIte, ↓fast_pow.pow_B1_2_1_sem, ↓fast_pow.pow_start_1_sem,
        ↓fast_pow.pow_entry_1_sem, ↓Machine.get_setx, ↓Machine.get_setg,
        ↓Machine.get_setstk, ↓Machine.get_enter, ↓Machine.get_setFlags,
        ↓Machine.trace_set, ↓Machine.get_ite, ↓Machine.trace_ite, ↓Machine.obs_eq_get,
        ↓Machine.flags_get, ↓Machine.flags_trace, ↓sem_get_1, ↓sem_get_2, ↓sem_get_3,
        ↓sem_get_4, ↓sem_trace_1, ↓sem_trace_2, ↓sem_trace_3, ↓sem_trace_4, ↓load_const,
        cc_iff, ea, and_imm, and_imm_left, ilog2_lit, or_eq_zero, or_mod32, or_lt_2p31,
        Nat.mod_mod, Nat.zero_or, Nat.or_zero, Nat.sub_zero, Nat.add_mod_right, lane_eq,
        Machine.io_eq_get, Nat.xor_self, Loc.x.injEq, Loc.g.injEq, Loc.m.injEq,
        Bool.toNat_eq_zero, Bool.toNat_eq_one, Nat.reducePow, Nat.reduceMul,
        Nat.reduceMod, Nat.reduceAdd, Nat.reduceSub, Nat.reduceDiv, Nat.reduceEqDiff,
        Nat.reduceLTLE, Nat.reduceLeDiff, Nat.reduceLT, Nat.reduceGT, Nat.reduceOr,
        Nat.reduceXor, reduceCtorEq, Bool.not_eq_true', Bool.not_eq_true,
        decide_eq_true_eq, decide_eq_false_iff_not, Bool.and_eq_true, Bool.or_eq_true,
        bne_iff_ne, beq_iff_eq, ne_eq, Bool.not_eq_false', Bool.not_eq_false, decide_not,
        not_not, Bool.decide_eq_true, Bool.false_eq_true, Bool.true_eq_false,
        not_false_eq_true, not_true_eq_false, and_true, true_and, and_false, false_and,
        or_true, true_or, or_false, false_or, not_true, not_false_iff, iff_self, true_iff,
        iff_true, false_iff, iff_false, ite_self, decide_eq_decide, decide_False,
        decide_True, Bool.not_true, Bool.not_false]
    all_goals omega

theorem fast_pow_nan_y_inf_run (cpu : Cpu) (s : Machine)
    (hx : s.arg0 = 0x7FF0000000000000 ∨ s.arg0 = 0xFFF0000000000000)
    (hy : f64IsNaN s.arg1 = true) :
    (fast_pow cpu s).result = f64Quiet s.arg1 := by
  have hn := hy
  simp only [Machine.io_eq_get, Nat.reducePow] at hn
  simp only [f64IsNaN, f64Exp, f64Man, decide_eq_true_eq, Machine.io_eq_get,
    Nat.reducePow] at hx hy
  rw [
      fast_pow, fast_pow.pow_entry_eq, fast_pow.pow_start_eq, fast_pow.pow_B1_2_eq, if_pos,
      fast_pow.pow_L_2TAG_PACKET_0_0_2_eq, if_pos, fast_pow.pow_L_2TAG_PACKET_6_0_2_eq,
      if_pos, fast_pow.pow_L_2TAG_PACKET_15_0_2_eq, if_neg, if_neg, if_pos,
      fast_pow.pow_L_2TAG_PACKET_18_0_2_eq, fast_pow.pow_B1_5_eq]
  · set_option maxRecDepth 8000 in
    simp only [
        ↓reduceIte, Nat.mod_mod, ↓fast_pow.pow_B1_5_1_sem,
        ↓fast_pow.pow_L_2TAG_PACKET_18_0_2_1_sem,
        ↓fast_pow.pow_L_2TAG_PACKET_15_0_2_3_sem,
        ↓fast_pow.pow_L_2TAG_PACKET_15_0_2_2_sem,
        ↓fast_pow.pow_L_2TAG_PACKET_15_0_2_1_sem, ↓fast_pow.pow_L_2TAG_PACKET_6_0_2_1_sem,
        ↓fast_pow.pow_L_2TAG_PACKET_0_0_2_1_sem, ↓fast_pow.pow_B1_2_1_sem,
        ↓fast_pow.pow_start_1_sem, ↓fast_pow.pow_entry_1_sem, ↓Machine.get_setx,
        ↓Machine.get_setg, ↓Machine.get_setstk, ↓Machine.get_enter, ↓Machine.get_setFlags,
        ↓Machine.trace_set, ↓Machine.get_ite, ↓Machine.trace_ite, ↓Machine.obs_eq_get,
        ↓Machine.flags_get, ↓Machine.flags_trace, ↓sem_get_1, ↓sem_get_2, ↓sem_get_3,
        ↓sem_get_4, ↓sem_trace_1, ↓sem_trace_2, ↓sem_trace_3, ↓sem_trace_4, ↓load_const,
        cc_iff, ea, and_imm, and_imm_left, ilog2_lit, or_eq_zero, or_mod32, or_lt_2p31,
        Nat.mod_mod, Nat.zero_or, Nat.or_zero, Nat.sub_zero, Nat.add_mod_right, lane_eq,
        Machine.io_eq_get, Nat.xor_self, Loc.x.injEq, Loc.g.injEq, Loc.m.injEq,
        Bool.toNat_eq_zero, Bool.toNat_eq_one, Nat.reducePow, Nat.reduceMul,
        Nat.reduceMod, Nat.reduceAdd, Nat.reduceSub, Nat.reduceDiv, Nat.reduceEqDiff,
        Nat.reduceLTLE, Nat.reduceLeDiff, Nat.reduceLT, Nat.reduceGT, Nat.reduceOr,
        Nat.reduceXor, reduceCtorEq, Bool.not_eq_true', Bool.not_eq_true,
        decide_eq_true_eq, decide_eq_false_iff_not, Bool.and_eq_true, Bool.or_eq_true,
        bne_iff_ne, beq_iff_eq, ne_eq, Bool.not_eq_false', Bool.not_eq_false, decide_not,
        not_not, Bool.decide_eq_true, Bool.false_eq_true, Bool.true_eq_false,
        not_false_eq_true, not_true_eq_false, and_true, true_and, and_false, false_and,
        or_true, true_or, or_false, false_or, not_true, not_false_iff, iff_self, true_iff,
        iff_true, false_iff, iff_false, ite_self, decide_eq_decide, decide_False,
        decide_True, Bool.not_true, Bool.not_false]
    rw [f64Add_of_isNaN _ _ hn]
    have := f64Quiet_lt (s.get (.x xmm1) % 18446744073709551616) (by omega)
    all_goals omega
  · set_option maxRecDepth 8000 in
    simp only [
        ↓reduceIte, ↓fast_pow.pow_L_2TAG_PACKET_15_0_2_3_sem,
        ↓fast_pow.pow_L_2TAG_PACKET_15_0_2_2_sem,
        ↓fast_pow.pow_L_2TAG_PACKET_15_0_2_1_sem, ↓fast_pow.pow_L_2TAG_PACKET_6_0_2_1_sem,
        ↓fast_pow.pow_L_2TAG_PACKET_0_0_2_1_sem, ↓fast_pow.pow_B1_2_1_sem,
        ↓fast_pow.pow_start_1_sem, ↓fast_pow.pow_entry_1_sem, ↓Machine.get_setx,
        ↓Machine.get_setg, ↓Machine.get_setstk, ↓Machine.get_enter, ↓Machine.get_setFlags,
        ↓Machine.trace_set, ↓Machine.get_ite, ↓Machine.trace_ite, ↓Machine.obs_eq_get,
        ↓Machine.flags_get, ↓Machine.flags_trace, ↓sem_get_1, ↓sem_get_2, ↓sem_get_3,
        ↓sem_get_4, ↓sem_trace_1, ↓sem_trace_2, ↓sem_trace_3, ↓sem_trace_4, ↓load_const,
        cc_iff, ea, and_imm, and_imm_left, ilog2_lit, or_eq_zero, or_mod32, or_lt_2p31,
        Nat.mod_mod, Nat.zero_or, Nat.or_zero, Nat.sub_zero, Nat.add_mod_right, lane_eq,
        Machine.io_eq_get, Nat.xor_self, Loc.x.injEq, Loc.g.injEq, Loc.m.injEq,
        Bool.toNat_eq_zero, Bool.toNat_eq_one, Nat.reducePow, Nat.reduceMul,
        Nat.reduceMod, Nat.reduceAdd, Nat.reduceSub, Nat.reduceDiv, Nat.reduceEqDiff,
        Nat.reduceLTLE, Nat.reduceLeDiff, Nat.reduceLT, Nat.reduceGT, Nat.reduceOr,
        Nat.reduceXor, reduceCtorEq, Bool.not_eq_true', Bool.not_eq_true,
        decide_eq_true_eq, decide_eq_false_iff_not, Bool.and_eq_true, Bool.or_eq_true,
        bne_iff_ne, beq_iff_eq, ne_eq, Bool.not_eq_false', Bool.not_eq_false, decide_not,
        not_not, Bool.decide_eq_true, Bool.false_eq_true, Bool.true_eq_false,
        not_false_eq_true, not_true_eq_false, and_true, true_and, and_false, false_and,
        or_true, true_or, or_false, false_or, not_true, not_false_iff, iff_self, true_iff,
        iff_true, false_iff, iff_false, ite_self, decide_eq_decide, decide_False,
        decide_True, Bool.not_true, Bool.not_false]
    all_goals omega
  · set_option maxRecDepth 8000 in
    simp only [
        ↓reduceIte, ↓fast_pow.pow_L_2TAG_PACKET_15_0_2_2_sem,
        ↓fast_pow.pow_L_2TAG_PACKET_15_0_2_1_sem, ↓fast_pow.pow_L_2TAG_PACKET_6_0_2_1_sem,
        ↓fast_pow.pow_L_2TAG_PACKET_0_0_2_1_sem, ↓fast_pow.pow_B1_2_1_sem,
        ↓fast_pow.pow_start_1_sem, ↓fast_pow.pow_entry_1_sem, ↓Machine.get_setx,
        ↓Machine.get_setg, ↓Machine.get_setstk, ↓Machine.get_enter, ↓Machine.get_setFlags,
        ↓Machine.trace_set, ↓Machine.get_ite, ↓Machine.trace_ite, ↓Machine.obs_eq_get,
        ↓Machine.flags_get, ↓Machine.flags_trace, ↓sem_get_1, ↓sem_get_2, ↓sem_get_3,
        ↓sem_get_4, ↓sem_trace_1, ↓sem_trace_2, ↓sem_trace_3, ↓sem_trace_4, ↓load_const,
        cc_iff, ea, and_imm, and_imm_left, ilog2_lit, or_eq_zero, or_mod32, or_lt_2p31,
        Nat.mod_mod, Nat.zero_or, Nat.or_zero, Nat.sub_zero, Nat.add_mod_right, lane_eq,
        Machine.io_eq_get, Nat.xor_self, Loc.x.injEq, Loc.g.injEq, Loc.m.injEq,
        Bool.toNat_eq_zero, Bool.toNat_eq_one, Nat.reducePow, Nat.reduceMul,
        Nat.reduceMod, Nat.reduceAdd, Nat.reduceSub, Nat.reduceDiv, Nat.reduceEqDiff,
        Nat.reduceLTLE, Nat.reduceLeDiff, Nat.reduceLT, Nat.reduceGT, Nat.reduceOr,
        Nat.reduceXor, reduceCtorEq, Bool.not_eq_true', Bool.not_eq_true,
        decide_eq_true_eq, decide_eq_false_iff_not, Bool.and_eq_true, Bool.or_eq_true,
        bne_iff_ne, beq_iff_eq, ne_eq, Bool.not_eq_false', Bool.not_eq_false, decide_not,
        not_not, Bool.decide_eq_true, Bool.false_eq_true, Bool.true_eq_false,
        not_false_eq_true, not_true_eq_false, and_true, true_and, and_false, false_and,
        or_true, true_or, or_false, false_or, not_true, not_false_iff, iff_self, true_iff,
        iff_true, false_iff, iff_false, ite_self, decide_eq_decide, decide_False,
        decide_True, Bool.not_true, Bool.not_false]
    all_goals omega
  · set_option maxRecDepth 8000 in
    simp only [
        ↓reduceIte, ↓fast_pow.pow_L_2TAG_PACKET_15_0_2_1_sem,
        ↓fast_pow.pow_L_2TAG_PACKET_6_0_2_1_sem, ↓fast_pow.pow_L_2TAG_PACKET_0_0_2_1_sem,
        ↓fast_pow.pow_B1_2_1_sem, ↓fast_pow.pow_start_1_sem, ↓fast_pow.pow_entry_1_sem,
        ↓Machine.get_setx, ↓Machine.get_setg, ↓Machine.get_setstk, ↓Machine.get_enter,
        ↓Machine.get_setFlags, ↓Machine.trace_set, ↓Machine.get_ite, ↓Machine.trace_ite,
        ↓Machine.obs_eq_get, ↓Machine.flags_get, ↓Machine.flags_trace, ↓sem_get_1,
        ↓sem_get_2, ↓sem_get_3, ↓sem_get_4, ↓sem_trace_1, ↓sem_trace_2, ↓sem_trace_3,
        ↓sem_trace_4, ↓load_const, cc_iff, ea, and_imm, and_imm_left, ilog2_lit,
        or_eq_zero, or_mod32, or_lt_2p31, Nat.mod_mod, Nat.zero_or, Nat.or_zero,
        Nat.sub_zero, Nat.add_mod_right, lane_eq, Machine.io_eq_get, Nat.xor_self,
        Loc.x.injEq, Loc.g.injEq, Loc.m.injEq, Bool.toNat_eq_zero, Bool.toNat_eq_one,
        Nat.reducePow, Nat.reduceMul, Nat.reduceMod, Nat.reduceAdd, Nat.reduceSub,
        Nat.reduceDiv, Nat.reduceEqDiff, Nat.reduceLTLE, Nat.reduceLeDiff, Nat.reduceLT,
        Nat.reduceGT, Nat.reduceOr, Nat.reduceXor, reduceCtorEq, Bool.not_eq_true',
        Bool.not_eq_true, decide_eq_true_eq, decide_eq_false_iff_not, Bool.and_eq_true,
        Bool.or_eq_true, bne_iff_ne, beq_iff_eq, ne_eq, Bool.not_eq_false',
        Bool.not_eq_false, decide_not, not_not, Bool.decide_eq_true, Bool.false_eq_true,
        Bool.true_eq_false, not_false_eq_true, not_true_eq_false, and_true, true_and,
        and_false, false_and, or_true, true_or, or_false, false_or, not_true,
        not_false_iff, iff_self, true_iff, iff_true, false_iff, iff_false, ite_self,
        decide_eq_decide, decide_False, decide_True, Bool.not_true, Bool.not_false]
    all_goals omega
  · set_option maxRecDepth 8000 in
    simp only [
        ↓reduceIte, ↓fast_pow.pow_L_2TAG_PACKET_6_0_2_1_sem,
        ↓fast_pow.pow_L_2TAG_PACKET_0_0_2_1_sem, ↓fast_pow.pow_B1_2_1_sem,
        ↓fast_pow.pow_start_1_sem, ↓fast_pow.pow_entry_1_sem, ↓Machine.get_setx,
        ↓Machine.get_setg, ↓Machine.get_setstk, ↓Machine.get_enter, ↓Machine.get_setFlags,
        ↓Machine.trace_set, ↓Machine.get_ite, ↓Machine.trace_ite, ↓Machine.obs_eq_get,
        ↓Machine.flags_get, ↓Machine.flags_trace, ↓sem_get_1, ↓sem_get_2, ↓sem_get_3,
        ↓sem_get_4, ↓sem_trace_1, ↓sem_trace_2, ↓sem_trace_3, ↓sem_trace_4, ↓load_const,
        cc_iff, ea, and_imm, and_imm_left, ilog2_lit, or_eq_zero, or_mod32, or_lt_2p31,
        Nat.mod_mod, Nat.zero_or, Nat.or_zero, Nat.sub_zero, Nat.add_mod_right, lane_eq,
        Machine.io_eq_get, Nat.xor_self, Loc.x.injEq, Loc.g.injEq, Loc.m.injEq,
        Bool.toNat_eq_zero, Bool.toNat_eq_one, Nat.reducePow, Nat.reduceMul,
        Nat.reduceMod, Nat.reduceAdd, Nat.reduceSub, Nat.reduceDiv, Nat.reduceEqDiff,
        Nat.reduceLTLE, Nat.reduceLeDiff, Nat.reduceLT, Nat.reduceGT, Nat.reduceOr,
        Nat.reduceXor, reduceCtorEq, Bool.not_eq_true', Bool.not_eq_true,
        decide_eq_true_eq, decide_eq_false_iff_not, Bool.and_eq_true, Bool.or_eq_true,
        bne_iff_ne, beq_iff_eq, ne_eq, Bool.not_eq_false', Bool.not_eq_false, decide_not,
        not_not, Bool.decide_eq_true, Bool.false_eq_true, Bool.true_eq_false,
        not_false_eq_true, not_true_eq_false, and_true, true_and, and_false, false_and,
        or_true, true_or, or_false, false_or, not_true, not_false_iff, iff_self, true_iff,
        iff_true, false_iff, iff_false, ite_self, decide_eq_decide, decide_False,
        decide_True, Bool.not_true, Bool.not_false]
    all_goals omega
  · set_option maxRecDepth 8000 in
    simp only [
        ↓reduceIte, ↓fast_pow.pow_L_2TAG_PACKET_0_0_2_1_sem, ↓fast_pow.pow_B1_2_1_sem,
        ↓fast_pow.pow_start_1_sem, ↓fast_pow.pow_entry_1_sem, ↓Machine.get_setx,
        ↓Machine.get_setg, ↓Machine.get_setstk, ↓Machine.get_enter, ↓Machine.get_setFlags,
        ↓Machine.trace_set, ↓Machine.get_ite, ↓Machine.trace_ite, ↓Machine.obs_eq_get,
        ↓Machine.flags_get, ↓Machine.flags_trace, ↓sem_get_1, ↓sem_get_2, ↓sem_get_3,
        ↓sem_get_4, ↓sem_trace_1, ↓sem_trace_2, ↓sem_trace_3, ↓sem_trace_4, ↓load_const,
        cc_iff, ea, and_imm, and_imm_left, ilog2_lit, or_eq_zero, or_mod32, or_lt_2p31,
        Nat.mod_mod, Nat.zero_or, Nat.or_zero, Nat.sub_zero, Nat.add_mod_right, lane_eq,
        Machine.io_eq_get, Nat.xor_self, Loc.x.injEq, Loc.g.injEq, Loc.m.injEq,
        Bool.toNat_eq_zero, Bool.toNat_eq_one, Nat.reducePow, Nat.reduceMul,
        Nat.reduceMod, Nat.reduceAdd, Nat.reduceSub, Nat.reduceDiv, Nat.reduceEqDiff,
        Nat.reduceLTLE, Nat.reduceLeDiff, Nat.reduceLT, Nat.reduceGT, Nat.reduceOr,
        Nat.reduceXor, reduceCtorEq, Bool.not_eq_true', Bool.not_eq_true,
        decide_eq_true_eq, decide_eq_false_iff_not, Bool.and_eq_true, Bool.or_eq_true,
        bne_iff_ne, beq_iff_eq, ne_eq, Bool.not_eq_false', Bool.not_eq_false, decide_not,
        not_not, Bool.decide_eq_true, Bool.false_eq_true, Bool.true_eq_false,
        not_false_eq_true, not_true_eq_false, and_true, true_and, and_false, false_and,
        or_true, true_or, or_false, false_or, not_true, not_false_iff, iff_self, true_iff,
        iff_true, false_iff, iff_false, ite_self, decide_eq_decide, decide_False,
        decide_True, Bool.not_true, Bool.not_false]
    all_goals omega
  · set_option maxRecDepth 8000 in
    simp only [
        ↓reduceIte, ↓fast_pow.pow_B1_2_1_sem, ↓fast_pow.pow_start_1_sem,
        ↓fast_pow.pow_entry_1_sem, ↓Machine.get_setx, ↓Machine.get_setg,
        ↓Machine.get_setstk, ↓Machine.get_enter, ↓Machine.get_setFlags,
        ↓Machine.trace_set, ↓Machine.get_ite, ↓Machine.trace_ite, ↓Machine.obs_eq_get,
        ↓Machine.flags_get, ↓Machine.flags_trace, ↓sem_get_1, ↓sem_get_2, ↓sem_get_3,
        ↓sem_get_4, ↓sem_trace_1, ↓sem_trace_2, ↓sem_trace_3, ↓sem_trace_4, ↓load_const,
        cc_iff, ea, and_imm, and_imm_left, ilog2_lit, or_eq_zero, or_mod32, or_lt_2p31,
        Nat.mod_mod, Nat.zero_or, Nat.or_zero, Nat.sub_zero, Nat.add_mod_right, lane_eq,
        Machine.io_eq_get, Nat.xor_self, Loc.x.injEq, Loc.g.injEq, Loc.m.injEq,
        Bool.toNat_eq_zero, Bool.toNat_eq_one, Nat.reducePow, Nat.reduceMul,
        Nat.reduceMod, Nat.reduceAdd, Nat.reduceSub, Nat.reduceDiv, Nat.reduceEqDiff,
        Nat.reduceLTLE, Nat.reduceLeDiff, Nat.reduceLT, Nat.reduceGT, Nat.reduceOr,
        Nat.reduceXor, reduceCtorEq, Bool.not_eq_true', Bool.not_eq_true,
        decide_eq_true_eq, decide_eq_false_iff_not, Bool.and_eq_true, Bool.or_eq_true,
        bne_iff_ne, beq_iff_eq, ne_eq, Bool.not_eq_false', Bool.not_eq_false, decide_not,
        not_not, Bool.decide_eq_true, Bool.false_eq_true, Bool.true_eq_false,
        not_false_eq_true, not_true_eq_false, and_true, true_and, and_false, false_and,
        or_true, true_or, or_false, false_or, not_true, not_false_iff, iff_self, true_iff,
        iff_true, false_iff, iff_false, ite_self, decide_eq_decide, decide_False,
        decide_True, Bool.not_true, Bool.not_false]
    all_goals omega

theorem fast_pow_nan_y_neg_run (cpu : Cpu) (s : Machine)
    (h1 : 0x8000000000000000 < s.arg0) (h2 : s.arg0 < 0xFFF0000000000000)
    (hy : f64IsNaN s.arg1 = true) :
    (fast_pow cpu s).result = f64Quiet s.arg1 := by
  have hn := hy
  simp only [Machine.io_eq_get, Nat.reducePow] at hn
  simp only [f64IsNaN, f64Exp, f64Man, decide_eq_true_eq, Machine.io_eq_get,
    Nat.reducePow] at h1 h2 hy
  rw [
      fast_pow, fast_pow.pow_entry_eq, fast_pow.pow_start_eq, fast_pow.pow_B1_2_eq, if_pos,
      fast_pow.pow_L_2TAG_PACKET_0_0_2_eq, if_neg, if_pos,
      fast_pow.pow_L_2TAG_PACKET_7_0_2_eq, if_neg, if_neg, if_pos,
      fast_pow.pow_L_2TAG_PACKET_28_0_2_eq, if_neg, fast_pow.pow_B1_5_eq]
  · set_option maxRecDepth 8000 in
    simp only [
        ↓reduceIte, Nat.mod_mod, ↓fast_pow.pow_B1_5_1_sem,
        ↓fast_pow.pow_L_2TAG_PACKET_28_0_2_2_sem,
        ↓fast_pow.pow_L_2TAG_PACKET_28_0_2_1_sem, ↓fast_pow.pow_L_2TAG_PACKET_7_0_2_3_sem,
        ↓fast_pow.pow_L_2TAG_PACKET_7_0_2_2_sem, ↓fast_pow.pow_L_2TAG_PACKET_7_0_2_1_sem,
        ↓fast_pow.pow_L_2TAG_PACKET_0_0_2_2_sem, ↓fast_pow.pow_L_2TAG_PACKET_0_0_2_1_sem,
        ↓fast_pow.pow_B1_2_1_sem, ↓fast_pow.pow_start_1_sem, ↓fast_pow.pow_entry_1_sem,
        ↓Machine.get_setx, ↓Machine.get_setg, ↓Machine.get_setstk, ↓Machine.get_enter,
        ↓Machine.get_setFlags, ↓Machine.trace_set, ↓Machine.get_ite, ↓Machine.trace_ite,
        ↓Machine.obs_eq_get, ↓Machine.flags_get, ↓Machine.flags_trace, ↓sem_get_1,
        ↓sem_get_2, ↓sem_get_3, ↓sem_get_4, ↓sem_trace_1, ↓sem_trace_2, ↓sem_trace_3,
        ↓sem_trace_4, ↓load_const, cc_iff, ea, and_imm, and_imm_left, ilog2_lit,
        or_eq_zero, or_mod32, or_lt_2p31, Nat.mod_mod, Nat.zero_or, Nat.or_zero,
        Nat.sub_zero, Nat.add_mod_right, lane_eq, Machine.io_eq_get, Nat.xor_self,
        Loc.x.injEq, Loc.g.injEq, Loc.m.injEq, Bool.toNat_eq_zero, Bool.toNat_eq_one,
        Nat.reducePow, Nat.reduceMul, Nat.reduceMod, Nat.reduceAdd, Nat.reduceSub,
        Nat.reduceDiv, Nat.reduceEqDiff, Nat.reduceLTLE, Nat.reduceLeDiff, Nat.reduceLT,
        Nat.reduceGT, Nat.reduceOr, Nat.reduceXor, reduceCtorEq, Bool.not_eq_true',
        Bool.not_eq_true, decide_eq_true_eq, decide_eq_false_iff_not, Bool.and_eq_true,
        Bool.or_eq_true, bne_iff_ne, beq_iff_eq, ne_eq, Bool.not_eq_false',
        Bool.not_eq_false, decide_not, not_not, Bool.decide_eq_true, Bool.false_eq_true,
        Bool.true_eq_false, not_false_eq_true, not_true_eq_false, and_true, true_and,
        and_false, false_and, or_true, true_or, or_false, false_or, not_true,
        not_false_iff, iff_self, true_iff, iff_true, false_iff, iff_false, ite_self,
        decide_eq_decide, decide_False, decide_True, Bool.not_true, Bool.not_false]
    rw [f64Add_of_isNaN _ _ hn]
    have := f64Quiet_lt (s.get (.x xmm1) % 18446744073709551616) (by omega)
    all_goals omega
  · set_option maxRecDepth 8000 in
    simp only [
        ↓reduceIte, ↓fast_pow.pow_L_2TAG_PACKET_28_0_2_1_sem,
        ↓fast_pow.pow_L_2TAG_PACKET_7_0_2_3_sem, ↓fast_pow.pow_L_2TAG_PACKET_7_0_2_2_sem,
        ↓fast_pow.pow_L_2TAG_PACKET_7_0_2_1_sem, ↓fast_pow.pow_L_2TAG_PACKET_0_0_2_2_sem,
        ↓fast_pow.pow_L_2TAG_PACKET_0_0_2_1_sem, ↓fast_pow.pow_B1_2_1_sem,
        ↓fast_pow.pow_start_1_sem, ↓fast_pow.pow_entry_1_sem, ↓Machine.get_setx,
        ↓Machine.get_setg, ↓Machine.get_setstk, ↓Machine.get_enter, ↓Machine.get_setFlags,
        ↓Machine.trace_set, ↓Machine.get_ite, ↓Machine.trace_ite, ↓Machine.obs_eq_get,
        ↓Machine.flags_get, ↓Machine.flags_trace, ↓sem_get_1, ↓sem_get_2, ↓sem_get_3,
        ↓sem_get_4, ↓sem_trace_1, ↓sem_trace_2, ↓sem_trace_3, ↓sem_trace_4, ↓load_const,
        cc_iff, ea, and_imm, and_imm_left, ilog2_lit, or_eq_zero, or_mod32, or_lt_2p31,
        Nat.mod_mod, Nat.zero_or, Nat.or_zero, Nat.sub_zero, Nat.add_mod_right, lane_eq,
        Machine.io_eq_get, Nat.xor_self, Loc.x.injEq, Loc.g.injEq, Loc.m.injEq,
        Bool.toNat_eq_zero, Bool.toNat_eq_one, Nat.reducePow, Nat.reduceMul,
        Nat.reduceMod, Nat.reduceAdd, Nat.reduceSub, Nat.reduceDiv, Nat.reduceEqDiff,
        Nat.reduceLTLE, Nat.reduceLeDiff, Nat.reduceLT, Nat.reduceGT, Nat.reduceOr,
        Nat.reduceXor, reduceCtorEq, Bool.not_eq_true', Bool.not_eq_true,
        decide_eq_true_eq, decide_eq_false_iff_not, Bool.and_eq_true, Bool.or_eq_true,
        bne_iff_ne, beq_iff_eq, ne_eq, Bool.not_eq_false', Bool.not_eq_false, decide_not,
        not_not, Bool.decide_eq_true, Bool.false_eq_true, Bool.true_eq_false,
        not_false_eq_true, not_true_eq_false, and_true, true_and, and_false, false_and,
        or_true, true_or, or_false, false_or, not_true, not_false_iff, iff_self, true_iff,
        iff_true, false_iff, iff_false, ite_self, decide_eq_decide, decide_False,
        decide_True, Bool.not_true, Bool.not_false]
    all_goals omega
  · set_option maxRecDepth 8000 in
    simp only [
        ↓reduceIte, ↓fast_pow.pow_L_2TAG_PACKET_7_0_2_3_sem,
        ↓fast_pow.pow_L_2TAG_PACKET_7_0_2_2_sem, ↓fast_pow.pow_L_2TAG_PACKET_7_0_2_1_sem,
        ↓fast_pow.pow_L_2TAG_PACKET_0_0_2_2_sem, ↓fast_pow.pow_L_2TAG_PACKET_0_0_2_1_sem,
        ↓fast_pow.pow_B1_2_1_sem, ↓fast_pow.pow_start_1_sem, ↓fast_pow.pow_entry_1_sem,
        ↓Machine.get_setx, ↓Machine.get_setg, ↓Machine.get_setstk, ↓Machine.get_enter,
        ↓Machine.get_setFlags, ↓Machine.trace_set, ↓Machine.get_ite, ↓Machine.trace_ite,
        ↓Machine.obs_eq_get, ↓Machine.flags_get, ↓Machine.flags_trace, ↓sem_get_1,
        ↓sem_get_2, ↓sem_get_3, ↓sem_get_4, ↓sem_trace_1, ↓sem_trace_2, ↓sem_trace_3,
        ↓sem_trace_4, ↓load_const, cc_iff, ea, and_imm, and_imm_left, ilog2_lit,
        or_eq_zero, or_mod32, or_lt_2p31, Nat.mod_mod, Nat.zero_or, Nat.or_zero,
        Nat.sub_zero, Nat.add_mod_right, lane_eq, Machine.io_eq_get, Nat.xor_self,
        Loc.x.injEq, Loc.g.injEq, Loc.m.injEq, Bool.toNat_eq_zero, Bool.toNat_eq_one,
        Nat.reducePow, Nat.reduceMul, Nat.reduceMod, Nat.reduceAdd, Nat.reduceSub,
        Nat.reduceDiv, Nat.reduceEqDiff, Nat.reduceLTLE, Nat.reduceLeDiff, Nat.reduceLT,
        Nat.reduceGT, Nat.reduceOr, Nat.reduceXor, reduceCtorEq, Bool.not_eq_true',
        Bool.not_eq_true, decide_eq_true_eq, decide_eq_false_iff_not, Bool.and_eq_true,
        Bool.or_eq_true, bne_iff_ne, beq_iff_eq, ne_eq, Bool.not_eq_false',
        Bool.not_eq_false, decide_not, not_not, Bool.decide_eq_true, Bool.false_eq_true,
        Bool.true_eq_false, not_false_eq_true, not_true_eq_false, and_true, true_and,
        and_false, false_and, or_true, true_or, or_false, false_or, not_true,
        not_false_iff, iff_self, true_iff, iff_true, false_iff, iff_false, ite_self,
        decide_eq_decide, decide_False, decide_True, Bool.not_true, Bool.not_false]
    all_goals omega
  · set_option maxRecDepth 8000 in
    simp only [
        ↓reduceIte, ↓fast_pow.pow_L_2TAG_PACKET_7_0_2_2_sem,
        ↓fast_pow.pow_L_2TAG_PACKET_7_0_2_1_sem, ↓fast_pow.pow_L_2TAG_PACKET_0_0_2_2_sem,
        ↓fast_pow.pow_L_2TAG_PACKET_0_0_2_1_sem, ↓fast_pow.pow_B1_2_1_sem,
        ↓fast_pow.pow_start_1_sem, ↓fast_pow.pow_entry_1_sem, ↓Machine.get_setx,
        ↓Machine.get_setg, ↓Machine.get_setstk, ↓Machine.get_enter, ↓Machine.get_setFlags,
        ↓Machine.trace_set, ↓Machine.get_ite, ↓Machine.trace_ite, ↓Machine.obs_eq_get,
        ↓Machine.flags_get, ↓Machine.flags_trace, ↓sem_get_1, ↓sem_get_2, ↓sem_get_3,
        ↓sem_get_4, ↓sem_trace_1, ↓sem_trace_2, ↓sem_trace_3, ↓sem_trace_4, ↓load_const,
        cc_iff, ea, and_imm, and_imm_left, ilog2_lit, or_eq_zero, or_mod32, or_lt_2p31,
        Nat.mod_mod, Nat.zero_or, Nat.or_zero, Nat.sub_zero, Nat.add_mod_right, lane_eq,
        Machine.io_eq_get, Nat.xor_self, Loc.x.injEq, Loc.g.injEq, Loc.m.injEq,
        Bool.toNat_eq_zero, Bool.toNat_eq_one, Nat.reducePow, Nat.reduceMul,
        Nat.reduceMod, Nat.reduceAdd, Nat.reduceSub, Nat.reduceDiv, Nat.reduceEqDiff,
        Nat.reduceLTLE, Nat.reduceLeDiff, Nat.reduceLT, Nat.reduceGT, Nat.reduceOr,
        Nat.reduceXor, reduceCtorEq, Bool.not_eq_true', Bool.not_eq_true,
        decide_eq_true_eq, decide_eq_false_iff_not, Bool.and_eq_true, Bool.or_eq_true,
        bne_iff_ne, beq_iff_eq, ne_eq, Bool.not_eq_false', Bool.not_eq_false, decide_not,
        not_not, Bool.decide_eq_true, Bool.false_eq_true, Bool.true_eq_false,
        not_false_eq_true, not_true_eq_false, and_true, true_and, and_false, false_and,
        or_true, true_or, or_false, false_or, not_true, not_false_iff, iff_self, true_iff,
        iff_true, false_iff, iff_false, ite_self, decide_eq_decide, decide_False,
        decide_True, Bool.not_true, Bool.not_false]
    all_goals omega
  · set_option maxRecDepth 8000 in
    simp only [
        ↓reduceIte, ↓fast_pow.pow_L_2TAG_PACKET_7_0_2_1_sem,
        ↓fast_pow.pow_L_2TAG_PACKET_0_0_2_2_sem, ↓fast_pow.pow_L_2TAG_PACKET_0_0_2_1_sem,
        ↓fast_pow.pow_B1_2_1_sem, ↓fast_pow.pow_start_1_sem, ↓fast_pow.pow_entry_1_sem,
        ↓Machine.get_setx, ↓Machine.get_setg, ↓Machine.get_setstk, ↓Machine.get_enter,
        ↓Machine.get_setFlags, ↓Machine.trace_set, ↓Machine.get_ite, ↓Machine.trace_ite,
        ↓Machine.obs_eq_get, ↓Machine.flags_get, ↓Machine.flags_trace, ↓sem_get_1,
        ↓sem_get_2, ↓sem_get_3, ↓sem_get_4, ↓sem_trace_1, ↓sem_trace_2, ↓sem_trace_3,
        ↓sem_trace_4, ↓load_const, cc_iff, ea, and_imm, and_imm_left, ilog2_lit,
        or_eq_zero, or_mod32, or_lt_2p31, Nat.mod_mod, Nat.zero_or, Nat.or_zero,
        Nat.sub_zero, Nat.add_mod_right, lane_eq, Machine.io_eq_get, Nat.xor_self,
        Loc.x.injEq, Loc.g.injEq, Loc.m.injEq, Bool.toNat_eq_zero, Bool.toNat_eq_one,
        Nat.reducePow, Nat.reduceMul, Nat.reduceMod, Nat.reduceAdd, Nat.reduceSub,
        Nat.reduceDiv, Nat.reduceEqDiff, Nat.reduceLTLE, Nat.reduceLeDiff, Nat.reduceLT,
        Nat.reduceGT, Nat.reduceOr, Nat.reduceXor, reduceCtorEq, Bool.not_eq_true',
        Bool.not_eq_true, decide_eq_true_eq, decide_eq_false_iff_not, Bool.and_eq_true,
        Bool.or_eq_true, bne_iff_ne, beq_iff_eq, ne_eq, Bool.not_eq_false',
        Bool.not_eq_false, decide_not, not_not, Bool.decide_eq_true, Bool.false_eq_true,
        Bool.true_eq_false, not_false_eq_true, not_true_eq_false, and_true, true_and,
        and_false, false_and, or_true, true_or, or_false, false_or, not_true,
        not_false_iff, iff_self, true_iff, iff_true, false_iff, iff_false, ite_self,
        decide_eq_decide, decide_False, decide_True, Bool.not_true, Bool.not_false]
    all_goals omega
  · set_option maxRecDepth 8000 in
    simp only [
        ↓reduceIte, ↓fast_pow.pow_L_2TAG_PACKET_0_0_2_2_sem,
        ↓fast_pow.pow_L_2TAG_PACKET_0_0_2_1_sem, ↓fast_pow.pow_B1_2_1_sem,
        ↓fast_pow.pow_start_1_sem, ↓fast_pow.pow_entry_1_sem, ↓Machine.get_setx,
        ↓Machine.get_setg, ↓Machine.get_setstk, ↓Machine.get_enter, ↓Machine.get_setFlags,
        ↓Machine.trace_set, ↓Machine.get_ite, ↓Machine.trace_ite, ↓Machine.obs_eq_get,
        ↓Machine.flags_get, ↓Machine.flags_trace, ↓sem_get_1, ↓sem_get_2, ↓sem_get_3,
        ↓sem_get_4, ↓sem_trace_1, ↓sem_trace_2, ↓sem_trace_3, ↓sem_trace_4, ↓load_const,
        cc_iff, ea, and_imm, and_imm_left, ilog2_lit, or_eq_zero, or_mod32, or_lt_2p31,
        Nat.mod_mod, Nat.zero_or, Nat.or_zero, Nat.sub_zero, Nat.add_mod_right, lane_eq,
        Machine.io_eq_get, Nat.xor_self, Loc.x.injEq, Loc.g.injEq, Loc.m.injEq,
        Bool.toNat_eq_zero, Bool.toNat_eq_one, Nat.reducePow, Nat.reduceMul,
        Nat.reduceMod, Nat.reduceAdd, Nat.reduceSub, Nat.reduceDiv, Nat.reduceEqDiff,
        Nat.reduceLTLE, Nat.reduceLeDiff, Nat.reduceLT, Nat.reduceGT, Nat.reduceOr,
        Nat.reduceXor, reduceCtorEq, Bool.not_eq_true', Bool.not_eq_true,
        decide_eq_true_eq, decide_eq_false_iff_not, Bool.and_eq_true, Bool.or_eq_true,
        bne_iff_ne, beq_iff_eq, ne_eq, Bool.not_eq_false', Bool.not_eq_false, decide_not,
        not_not, Bool.decide_eq_true, Bool.false_eq_true, Bool.true_eq_false,
        not_false_eq_true, not_true_eq_false, and_true, true_and, and_false, false_and,
        or_true, true_or, or_false, false_or, not_true, not_false_iff, iff_self, true_iff,
        iff_true, false_iff, iff_false, ite_self, decide_eq_decide, decide_False,
        decide_True, Bool.not_true, Bool.not_false]
    all_goals omega
  · set_option maxRecDepth 8000 in
    simp only [
        ↓reduceIte, ↓fast_pow.pow_L_2TAG_PACKET_0_0_2_1_sem, ↓fast_pow.pow_B1_2_1_sem,
        ↓fast_pow.pow_start_1_sem, ↓fast_pow.pow_entry_1_sem, ↓Machine.get_setx,
        ↓Machine.get_setg, ↓Machine.get_setstk, ↓Machine.get_enter, ↓Machine.get_setFlags,
        ↓Machine.trace_set, ↓Machine.get_ite, ↓Machine.trace_ite, ↓Machine.obs_eq_get,
        ↓Machine.flags_get, ↓Machine.flags_trace, ↓sem_get_1, ↓sem_get_2, ↓sem_get_3,
        ↓sem_get_4, ↓sem_trace_1, ↓sem_trace_2, ↓sem_trace_3, ↓sem_trace_4, ↓load_const,
        cc_iff, ea, and_imm, and_imm_left, ilog2_lit, or_eq_zero, or_mod32, or_lt_2p31,
        Nat.mod_mod, Nat.zero_or, Nat.or_zero, Nat.sub_zero, Nat.add_mod_right, lane_eq,
        Machine.io_eq_get, Nat.xor_self, Loc.x.injEq, Loc.g.injEq, Loc.m.injEq,
        Bool.toNat_eq_zero, Bool.toNat_eq_one, Nat.reducePow, Nat.reduceMul,
        Nat.reduceMod, Nat.reduceAdd, Nat.reduceSub, Nat.reduceDiv, Nat.reduceEqDiff,
        Nat.reduceLTLE, Nat.reduceLeDiff, Nat.reduceLT, Nat.reduceGT, Nat.reduceOr,
        Nat.reduceXor, reduceCtorEq, Bool.not_eq_true', Bool.not_eq_true,
        decide_eq_true_eq, decide_eq_false_iff_not, Bool.and_eq_true, Bool.or_eq_true,
        bne_iff_ne, beq_iff_eq, ne_eq, Bool.not_eq_false', Bool.not_eq_false, decide_not,
        not_not, Bool.decide_eq_true, Bool.false_eq_true, Bool.true_eq_false,
        not_false_eq_true, not_true_eq_false, and_true, true_and, and_false, false_and,
        or_true, true_or, or_false, false_or, not_true, not_false_iff, iff_self, true_iff,
        iff_true, false_iff, iff_false, ite_self, decide_eq_decide, decide_False,
        decide_True, Bool.not_true, Bool.not_false]
    all_goals omega
  · set_option maxRecDepth 8000 in
    simp only [
        ↓reduceIte, ↓fast_pow.pow_B1_2_1_sem, ↓fast_pow.pow_start_1_sem,
        ↓fast_pow.pow_entry_1_sem, ↓Machine.get_setx, ↓Machine.get_setg,
        ↓Machine.get_setstk, ↓Machine.get_enter, ↓Machine.get_setFlags,
        ↓Machine.trace_set, ↓Machine.get_ite, ↓Machine.trace_ite, ↓Machine.obs_eq_get,
        ↓Machine.flags_get, ↓Machine.flags_trace, ↓sem_get_1, ↓sem_get_2, ↓sem_get_3,
        ↓sem_get_4, ↓sem_trace_1, ↓sem_trace_2, ↓sem_trace_3, ↓sem_trace_4, ↓load_const,
        cc_iff, ea, and_imm, and_imm_left, ilog2_lit, or_eq_zero, or_mod32, or_lt_2p31,
        Nat.mod_mod, Nat.zero_or, Nat.or_zero, Nat.sub_zero, Nat.add_mod_right, lane_eq,
        Machine.io_eq_get, Nat.xor_self, Loc.x.injEq, Loc.g.injEq, Loc.m.injEq,
        Bool.toNat_eq_zero, Bool.toNat_eq_one, Nat.reducePow, Nat.reduceMul,
        Nat.reduceMod, Nat.reduceAdd, Nat.reduceSub, Nat.reduceDiv, Nat.reduceEqDiff,
        Nat.reduceLTLE, Nat.reduceLeDiff, Nat.reduceLT, Nat.reduceGT, Nat.reduceOr,
        Nat.reduceXor, reduceCtorEq, Bool.not_eq_true', Bool.not_eq_true,
        decide_eq_true_eq, decide_eq_false_iff_not, Bool.and_eq_true, Bool.or_eq_true,
        bne_iff_ne, beq_iff_eq, ne_eq, Bool.not_eq_false', Bool.not_eq_false, decide_not,
        not_not, Bool.decide_eq_true, Bool.false_eq_true, Bool.true_eq_false,
        not_false_eq_true, not_true_eq_false, and_true, true_and, and_false, false_and,
        or_true, true_or, or_false, false_or, not_true, not_false_iff, iff_self, true_iff,
        iff_true, false_iff, iff_false, ite_self, decide_eq_decide, decide_False,
        decide_True, Bool.not_true, Bool.not_false]
    all_goals omega

theorem fast_pow_nan_y_nzero_run (cpu : Cpu) (s : Machine)
    (hx : s.arg0 = 0x8000000000000000) (hy : f64IsNaN s.arg1 = true) :
    (fast_pow cpu s).result = f64Quiet s.arg1 := by
  have hn := hy
  simp only [Machine.io_eq_get, Nat.reducePow] at hn
  simp only [f64IsNaN, f64Exp, f64Man, decide_eq_true_eq, Machine.io_eq_get,
    Nat.reducePow] at hx hy
  rw [
      fast_pow, fast_pow.pow_entry_eq, fast_pow.pow_start_eq, fast_pow.pow_B1_2_eq, if_pos,
      fast_pow.pow_L_2TAG_PACKET_0_0_2_eq, if_neg, if_pos,
      fast_pow.pow_L_2TAG_PACKET_7_0_2_eq, if_pos, fast_pow.pow_L_2TAG_PACKET_9_0_2_eq,
      if_neg, if_pos, fast_pow.pow_L_2TAG_PACKET_18_0_2_eq, fast_pow.pow_B1_5_eq]
  · set_option maxRecDepth 8000 in
    simp only [
        ↓reduceIte, Nat.mod_mod, ↓fast_pow.pow_B1_5_1_sem,
        ↓fast_pow.pow_L_2TAG_PACKET_18_0_2_1_sem, ↓fast_pow.pow_L_2TAG_PACKET_9_0_2_2_sem,
        ↓fast_pow.pow_L_2TAG_PACKET_9_0_2_1_sem, ↓fast_pow.pow_L_2TAG_PACKET_7_0_2_1_sem,
        ↓fast_pow.pow_L_2TAG_PACKET_0_0_2_2_sem, ↓fast_pow.pow_L_2TAG_PACKET_0_0_2_1_sem,
        ↓fast_pow.pow_B1_2_1_sem, ↓fast_pow.pow_start_1_sem, ↓fast_pow.pow_entry_1_sem,
        ↓Machine.get_setx, ↓Machine.get_setg, ↓Machine.get_setstk, ↓Machine.get_enter,
        ↓Machine.get_setFlags, ↓Machine.trace_set, ↓Machine.get_ite, ↓Machine.trace_ite,
        ↓Machine.obs_eq_get, ↓Machine.flags_get, ↓Machine.flags_trace, ↓sem_get_1,
        ↓sem_get_2, ↓sem_get_3, ↓sem_get_4, ↓sem_trace_1, ↓sem_trace_2, ↓sem_trace_3,
        ↓sem_trace_4, ↓load_const, cc_iff, ea, and_imm, and_imm_left, ilog2_lit,
        or_eq_zero, or_mod32, or_lt_2p31, Nat.mod_mod, Nat.zero_or, Nat.or_zero,
        Nat.sub_zero, Nat.add_mod_right, lane_eq, Machine.io_eq_get, Nat.xor_self,
        Loc.x.injEq, Loc.g.injEq, Loc.m.injEq, Bool.toNat_eq_zero, Bool.toNat_eq_one,
        Nat.reducePow, Nat.reduceMul, Nat.reduceMod, Nat.reduceAdd, Nat.reduceSub,
        Nat.reduceDiv, Nat.reduceEqDiff, Nat.reduceLTLE, Nat.reduceLeDiff, Nat.reduceLT,
        Nat.reduceGT, Nat.reduceOr, Nat.reduceXor, reduceCtorEq, Bool.not_eq_true',
        Bool.not_eq_true, decide_eq_true_eq, decide_eq_false_iff_not, Bool.and_eq_true,
        Bool.or_eq_true, bne_iff_ne, beq_iff_eq, ne_eq, Bool.not_eq_false',
        Bool.not_eq_false, decide_not, not_not, Bool.decide_eq_true, Bool.false_eq_true,
        Bool.true_eq_false, not_false_eq_true, not_true_eq_false, and_true, true_and,
        and_false, false_and, or_true, true_or, or_false, false_or, not_true,
        not_false_iff, iff_self, true_iff, iff_true, false_iff, iff_false, ite_self,
        decide_eq_decide, decide_False, decide_True, Bool.not_true, Bool.not_false]
    rw [f64Add_of_isNaN _ _ hn]
    have := f64Quiet_lt (s.get (.x xmm1) % 18446744073709551616) (by omega)
    all_goals omega
  · set_option maxRecDepth 8000 in
    simp only [
        ↓reduceIte, ↓fast_pow.pow_L_2TAG_PACKET_9_0_2_2_sem,
        ↓fast_pow.pow_L_2TAG_PACKET_9_0_2_1_sem, ↓fast_pow.pow_L_2TAG_PACKET_7_0_2_1_sem,
        ↓fast_pow.pow_L_2TAG_PACKET_0_0_2_2_sem, ↓fast_pow.pow_L_2TAG_PACKET_0_0_2_1_sem,
        ↓fast_pow.pow_B1_2_1_sem, ↓fast_pow.pow_start_1_sem, ↓fast_pow.pow_entry_1_sem,
        ↓Machine.get_setx, ↓Machine.get_setg, ↓Machine.get_setstk, ↓Machine.get_enter,
        ↓Machine.get_setFlags, ↓Machine.trace_set, ↓Machine.get_ite, ↓Machine.trace_ite,
        ↓Machine.obs_eq_get, ↓Machine.flags_get, ↓Machine.flags_trace, ↓sem_get_1,
        ↓sem_get_2, ↓sem_get_3, ↓sem_get_4, ↓sem_trace_1, ↓sem_trace_2, ↓sem_trace_3,
        ↓sem_trace_4, ↓load_const, cc_iff, ea, and_imm, and_imm_left, ilog2_lit,
        or_eq_zero, or_mod32, or_lt_2p31, Nat.mod_mod, Nat.zero_or, Nat.or_zero,
        Nat.sub_zero, Nat.add_mod_right, lane_eq, Machine.io_eq_get, Nat.xor_self,
        Loc.x.injEq, Loc.g.injEq, Loc.m.injEq, Bool.toNat_eq_zero, Bool.toNat_eq_one,
        Nat.reducePow, Nat.reduceMul, Nat.reduceMod, Nat.reduceAdd, Nat.reduceSub,
        Nat.reduceDiv, Nat.reduceEqDiff, Nat.reduceLTLE, Nat.reduceLeDiff, Nat.reduceLT,
        Nat.reduceGT, Nat.reduceOr, Nat.reduceXor, reduceCtorEq, Bool.not_eq_true',
        Bool.not_eq_true, decide_eq_true_eq, decide_eq_false_iff_not, Bool.and_eq_true,
        Bool.or_eq_true, bne_iff_ne, beq_iff_eq, ne_eq, Bool.not_eq_false',
        Bool.not_eq_false, decide_not, not_not, Bool.decide_eq_true, Bool.false_eq_true,
        Bool.true_eq_false, not_false_eq_true, not_true_eq_false, and_true, true_and,
        and_false, false_and, or_true, true_or, or_false, false_or, not_true,
        not_false_iff, iff_self, true_iff, iff_true, false_iff, iff_false, ite_self,
        decide_eq_decide, decide_False, decide_True, Bool.not_true, Bool.not_false]
    all_goals omega
  · set_option maxRecDepth 8000 in
    simp only [
        ↓reduceIte, ↓fast_pow.pow_L_2TAG_PACKET_9_0_2_1_sem,
        ↓fast_pow.pow_L_2TAG_PACKET_7_0_2_1_sem, ↓fast_pow.pow_L_2TAG_PACKET_0_0_2_2_sem,
        ↓fast_pow.pow_L_2TAG_PACKET_0_0_2_1_sem, ↓fast_pow.pow_B1_2_1_sem,
        ↓fast_pow.pow_start_1_sem, ↓fast_pow.pow_entry_1_sem, ↓Machine.get_setx,
        ↓Machine.get_setg, ↓Machine.get_setstk, ↓Machine.get_enter, ↓Machine.get_setFlags,
        ↓Machine.trace_set, ↓Machine.get_ite, ↓Machine.trace_ite, ↓Machine.obs_eq_get,
        ↓Machine.flags_get, ↓Machine.flags_trace, ↓sem_get_1, ↓sem_get_2, ↓sem_get_3,
        ↓sem_get_4, ↓sem_trace_1, ↓sem_trace_2, ↓sem_trace_3, ↓sem_trace_4, ↓load_const,
        cc_iff, ea, and_imm, and_imm_left, ilog2_lit, or_eq_zero, or_mod32, or_lt_2p31,
        Nat.mod_mod, Nat.zero_or, Nat.or_zero, Nat.sub_zero, Nat.add_mod_right, lane_eq,
        Machine.io_eq_get, Nat.xor_self, Loc.x.injEq, Loc.g.injEq, Loc.m.injEq,
        Bool.toNat_eq_zero, Bool.toNat_eq_one, Nat.reducePow, Nat.reduceMul,
        Nat.reduceMod, Nat.reduceAdd, Nat.reduceSub, Nat.reduceDiv, Nat.reduceEqDiff,
        Nat.reduceLTLE, Nat.reduceLeDiff, Nat.reduceLT, Nat.reduceGT, Nat.reduceOr,
        Nat.reduceXor, reduceCtorEq, Bool.not_eq_true', Bool.not_eq_true,
        decide_eq_true_eq, decide_eq_false_iff_not, Bool.and_eq_true, Bool.or_eq_true,
        bne_iff_ne, beq_iff_eq, ne_eq, Bool.not_eq_false', Bool.not_eq_false, decide_not,
        not_not, Bool.decide_eq_true, Bool.false_eq_true, Bool.true_eq_false,
        not_false_eq_true, not_true_eq_false, and_true, true_and, and_false, false_and,
        or_true, true_or, or_false, false_or, not_true, not_false_iff, iff_self, true_iff,
        iff_true, false_iff, iff_false, ite_self, decide_eq_decide, decide_False,
        decide_True, Bool.not_true, Bool.not_false]
    all_goals omega
  · set_option maxRecDepth 8000 in
    simp only [
        ↓reduceIte, ↓fast_pow.pow_L_2TAG_PACKET_7_0_2_1_sem,
        ↓fast_pow.pow_L_2TAG_PACKET_0_0_2_2_sem, ↓fast_pow.pow_L_2TAG_PACKET_0_0_2_1_sem,
        ↓fast_pow.pow_B1_2_1_sem, ↓fast_pow.pow_start_1_sem, ↓fast_pow.pow_entry_1_sem,
        ↓Machine.get_setx, ↓Machine.get_setg, ↓Machine.get_setstk, ↓Machine.get_enter,
        ↓Machine.get_setFlags, ↓Machine.trace_set, ↓Machine.get_ite, ↓Machine.trace_ite,
        ↓Machine.obs_eq_get, ↓Machine.flags_get, ↓Machine.flags_trace, ↓sem_get_1,
        ↓sem_get_2, ↓sem_get_3, ↓sem_get_4, ↓sem_trace_1, ↓sem_trace_2, ↓sem_trace_3,
        ↓sem_trace_4, ↓load_const, cc_iff, ea, and_imm, and_imm_left, ilog2_lit,
        or_eq_zero, or_mod32, or_lt_2p31, Nat.mod_mod, Nat.zero_or, Nat.or_zero,
        Nat.sub_zero, Nat.add_mod_right, lane_eq, Machine.io_eq_get, Nat.xor_self,
        Loc.x.injEq, Loc.g.injEq, Loc.m.injEq, Bool.toNat_eq_zero, Bool.toNat_eq_one,
        Nat.reducePow, Nat.reduceMul, Nat.reduceMod, Nat.reduceAdd, Nat.reduceSub,
        Nat.reduceDiv, Nat.reduceEqDiff, Nat.reduceLTLE, Nat.reduceLeDiff, Nat.reduceLT,
        Nat.reduceGT, Nat.reduceOr, Nat.reduceXor, reduceCtorEq, Bool.not_eq_true',
        Bool.not_eq_true, decide_eq_true_eq, decide_eq_false_iff_not, Bool.and_eq_true,
        Bool.or_eq_true, bne_iff_ne, beq_iff_eq, ne_eq, Bool.not_eq_false',
        Bool.not_eq_false, decide_not, not_not, Bool.decide_eq_true, Bool.false_eq_true,
        Bool.true_eq_false, not_false_eq_true, not_true_eq_false, and_true, true_and,
        and_false, false_and, or_true, true_or, or_false, false_or, not_true,
        not_false_iff, iff_self, true_iff, iff_true, false_iff, iff_false, ite_self,
        decide_eq_decide, decide_False, decide_True, Bool.not_true, Bool.not_false]
    all_goals omega
  · set_option maxRecDepth 8000 in
    simp only [
        ↓reduceIte, ↓fast_pow.pow_L_2TAG_PACKET_0_0_2_2_sem,
        ↓fast_pow.pow_L_2TAG_PACKET_0_0_2_1_sem, ↓fast_pow.pow_B1_2_1_sem,
        ↓fast_pow.pow_start_1_sem, ↓fast_pow.pow_entry_1_sem, ↓Machine.get_setx,
        ↓Machine.get_setg, ↓Machine.get_setstk, ↓Machine.get_enter, ↓Machine.get_setFlags,
        ↓Machine.trace_set, ↓Machine.get_ite, ↓Machine.trace_ite, ↓Machine.obs_eq_get,
        ↓Machine.flags_get, ↓Machine.flags_trace, ↓sem_get_1, ↓sem_get_2, ↓sem_get_3,
        ↓sem_get_4, ↓sem_trace_1, ↓sem_trace_2, ↓sem_trace_3, ↓sem_trace_4, ↓load_const,
        cc_iff, ea, and_imm, and_imm_left, ilog2_lit, or_eq_zero, or_mod32, or_lt_2p31,
        Nat.mod_mod, Nat.zero_or, Nat.or_zero, Nat.sub_zero, Nat.add_mod_right, lane_eq,
        Machine.io_eq_get, Nat.xor_self, Loc.x.injEq, Loc.g.injEq, Loc.m.injEq,
        Bool.toNat_eq_zero, Bool.toNat_eq_one, Nat.reducePow, Nat.reduceMul,
        Nat.reduceMod, Nat.reduceAdd, Nat.reduceSub, Nat.reduceDiv, Nat.reduceEqDiff,
        Nat.reduceLTLE, Nat.reduceLeDiff, Nat.reduceLT, Nat.reduceGT, Nat.reduceOr,
        Nat.reduceXor, reduceCtorEq, Bool.not_eq_true', Bool.not_eq_true,
        decide_eq_true_eq, decide_eq_false_iff_not, Bool.and_eq_true, Bool.or_eq_true,
        bne_iff_ne, beq_iff_eq, ne_eq, Bool.not_eq_false', Bool.not_eq_false, decide_not,
        not_not, Bool.decide_eq_true, Bool.false_eq_true, Bool.true_eq_false,
        not_false_eq_true, not_true_eq_false, and_true, true_and, and_false, false_and,
        or_true, true_or, or_false, false_or, not_true, not_false_iff, iff_self, true_iff,
        iff_true, false_iff, iff_false, ite_self, decide_eq_decide, decide_False,
        decide_True, Bool.not_true, Bool.not_false]
    all_goals omega
  · set_option maxRecDepth 8000 in
    simp only [
        ↓reduceIte, ↓fast_pow.pow_L_2TAG_PACKET_0_0_2_1_sem, ↓fast_pow.pow_B1_2_1_sem,
        ↓fast_pow.pow_start_1_sem, ↓fast_pow.pow_entry_1_sem, ↓Machine.get_setx,
        ↓Machine.get_setg, ↓Machine.get_setstk, ↓Machine.get_enter, ↓Machine.get_setFlags,
        ↓Machine.trace_set, ↓Machine.get_ite, ↓Machine.trace_ite, ↓Machine.obs_eq_get,
        ↓Machine.flags_get, ↓Machine.flags_trace, ↓sem_get_1, ↓sem_get_2, ↓sem_get_3,
        ↓sem_get_4, ↓sem_trace_1, ↓sem_trace_2, ↓sem_trace_3, ↓sem_trace_4, ↓load_const,
        cc_iff, ea, and_imm, and_imm_left, ilog2_lit, or_eq_zero, or_mod32, or_lt_2p31,
        Nat.mod_mod, Nat.zero_or, Nat.or_zero, Nat.sub_zero, Nat.add_mod_right, lane_eq,
        Machine.io_eq_get, Nat.xor_self, Loc.x.injEq, Loc.g.injEq, Loc.m.injEq,
        Bool.toNat_eq_zero, Bool.toNat_eq_one, Nat.reducePow, Nat.reduceMul,
        Nat.reduceMod, Nat.reduceAdd, Nat.reduceSub, Nat.reduceDiv, Nat.reduceEqDiff,
        Nat.reduceLTLE, Nat.reduceLeDiff, Nat.reduceLT, Nat.reduceGT, Nat.reduceOr,
        Nat.reduceXor, reduceCtorEq, Bool.not_eq_true', Bool.not_eq_true,
        decide_eq_true_eq, decide_eq_false_iff_not, Bool.and_eq_true, Bool.or_eq_true,
        bne_iff_ne, beq_iff_eq, ne_eq, Bool.not_eq_false', Bool.not_eq_false, decide_not,
        not_not, Bool.decide_eq_true, Bool.false_eq_true, Bool.true_eq_false,
        not_false_eq_true, not_true_eq_false, and_true, true_and, and_false, false_and,
        or_true, true_or, or_false, false_or, not_true, not_false_iff, iff_self, true_iff,
        iff_true, false_iff, iff_false, ite_self, decide_eq_decide, decide_False,
        decide_True, Bool.not_true, Bool.not_false]
    all_goals omega
  · set_option maxRecDepth 8000 in
    simp only [
        ↓reduceIte, ↓fast_pow.pow_B1_2_1_sem, ↓fast_pow.pow_start_1_sem,
        ↓fast_pow.pow_entry_1_sem, ↓Machine.get_setx, ↓Machine.get_setg,
        ↓Machine.get_setstk, ↓Machine.get_enter, ↓Machine.get_setFlags,
        ↓Machine.trace_set, ↓Machine.get_ite, ↓Machine.trace_ite, ↓Machine.obs_eq_get,
        ↓Machine.flags_get, ↓Machine.flags_trace, ↓sem_get_1, ↓sem_get_2, ↓sem_get_3,
        ↓sem_get_4, ↓sem_trace_1, ↓sem_trace_2, ↓sem_trace_3, ↓sem_trace_4, ↓load_const,
        cc_iff, ea, and_imm, and_imm_left, ilog2_lit, or_eq_zero, or_mod32, or_lt_2p31,
        Nat.mod_mod, Nat.zero_or, Nat.or_zero, Nat.sub_zero, Nat.add_mod_right, lane_eq,
        Machine.io_eq_get, Nat.xor_self, Loc.x.injEq, Loc.g.injEq, Loc.m.injEq,
        Bool.toNat_eq_zero, Bool.toNat_eq_one, Nat.reducePow, Nat.reduceMul,
        Nat.reduceMod, Nat.reduceAdd, Nat.reduceSub, Nat.reduceDiv, Nat.reduceEqDiff,
        Nat.reduceLTLE, Nat.reduceLeDiff, Nat.reduceLT, Nat.reduceGT, Nat.reduceOr,
        Nat.reduceXor, reduceCtorEq, Bool.not_eq_true', Bool.not_eq_true,
        decide_eq_true_eq, decide_eq_false_iff_not, Bool.and_eq_true, Bool.or_eq_true,
        bne_iff_ne, beq_iff_eq, ne_eq, Bool.not_eq_false', Bool.not_eq_false, decide_not,
        not_not, Bool.decide_eq_true, Bool.false_eq_true, Bool.true_eq_false,
        not_false_eq_true, not_true_eq_false, and_true, true_and, and_false, false_and,
        or_true, true_or, or_false, false_or, not_true, not_false_iff, iff_self, true_iff,
        iff_true, false_iff, iff_false, ite_self, decide_eq_decide, decide_False,
        decide_True, Bool.not_true, Bool.not_false]
    all_goals omega

theorem fast_pow_nan_y_pzero_run (cpu : Cpu) (s : Machine)
    (hx : s.arg0 = 0) (hy : f64IsNaN s.arg1 = true) :
    (fast_pow cpu s).result = f64Quiet s.arg1 := by
  have hn := hy
  simp only [Machine.io_eq_get, Nat.reducePow] at hn
  simp only [f64IsNaN, f64Exp, f64Man, decide_eq_true_eq, Machine.io_eq_get,
    Nat.reducePow] at hx hy
  rw [
      fast_pow, fast_pow.pow_entry_eq, fast_pow.pow_start_eq, fast_pow.pow_B1_2_eq, if_pos,
      fast_pow.pow_L_2TAG_PACKET_0_0_2_eq, if_neg, if_neg,
      fast_pow.pow_L_2TAG_PACKET_8_0_2_eq, if_pos, fast_pow.pow_L_2TAG_PACKET_9_0_2_eq,
      if_neg, if_pos, fast_pow.pow_L_2TAG_PACKET_18_0_2_eq, fast_pow.pow_B1_5_eq]
  · set_option maxRecDepth 8000 in
    simp only [
        ↓reduceIte, Nat.mod_mod, ↓fast_pow.pow_B1_5_1_sem,
        ↓fast_pow.pow_L_2TAG_PACKET_18_0_2_1_sem, ↓fast_pow.pow_L_2TAG_PACKET_9_0_2_2_sem,
        ↓fast_pow.pow_L_2TAG_PACKET_9_0_2_1_sem, ↓fast_pow.pow_L_2TAG_PACKET_8_0_2_1_sem,
        ↓fast_pow.pow_L_2TAG_PACKET_0_0_2_3_sem, ↓fast_pow.pow_L_2TAG_PACKET_0_0_2_2_sem,
        ↓fast_pow.pow_L_2TAG_PACKET_0_0_2_1_sem, ↓fast_pow.pow_B1_2_1_sem,
        ↓fast_pow.pow_start_1_sem, ↓fast_pow.pow_entry_1_sem, ↓Machine.get_setx,
        ↓Machine.get_setg, ↓Machine.get_setstk, ↓Machine.get_enter, ↓Machine.get_setFlags,
        ↓Machine.trace_set, ↓Machine.get_ite, ↓Machine.trace_ite, ↓Machine.obs_eq_get,
        ↓Machine.flags_get, ↓Machine.flags_trace, ↓sem_get_1, ↓sem_get_2, ↓sem_get_3,
        ↓sem_get_4, ↓sem_trace_1, ↓sem_trace_2, ↓sem_trace_3, ↓sem_trace_4, ↓load_const,
        cc_iff, ea, and_imm, and_imm_left, ilog2_lit, or_eq_zero, or_mod32, or_lt_2p31,
        Nat.mod_mod, Nat.zero_or, Nat.or_zero, Nat.sub_zero, Nat.add_mod_right, lane_eq,
        Machine.io_eq_get, Nat.xor_self, Loc.x.injEq, Loc.g.injEq, Loc.m.injEq,
        Bool.toNat_eq_zero, Bool.toNat_eq_one, Nat.reducePow, Nat.reduceMul,
        Nat.reduceMod, Nat.reduceAdd, Nat.reduceSub, Nat.reduceDiv, Nat.reduceEqDiff,
        Nat.reduceLTLE, Nat.reduceLeDiff, Nat.reduceLT, Nat.reduceGT, Nat.reduceOr,
        Nat.reduceXor, reduceCtorEq, Bool.not_eq_true', Bool.not_eq_true,
        decide_eq_true_eq, decide_eq_false_iff_not, Bool.and_eq_true, Bool.or_eq_true,
        bne_iff_ne, beq_iff_eq, ne_eq, Bool.not_eq_false', Bool.not_eq_false, decide_not,
        not_not, Bool.decide_eq_true, Bool.false_eq_true, Bool.true_eq_false,
        not_false_eq_true, not_true_eq_false, and_true, true_and, and_false, false_and,
        or_true, true_or, or_false, false_or, not_true, not_false_iff, iff_self, true_iff,
        iff_true, false_iff, iff_false, ite_self, decide_eq_decide, decide_False,
        decide_True, Bool.not_true, Bool.not_false]
    rw [f64Add_of_isNaN _ _ hn]
    have := f64Quiet_lt (s.get (.x xmm1) % 18446744073709551616) (by omega)
    all_goals omega
  · set_option maxRecDepth 8000 in
    simp only [
        ↓reduceIte, ↓fast_pow.pow_L_2TAG_PACKET_9_0_2_2_sem,
        ↓fast_pow.pow_L_2TAG_PACKET_9_0_2_1_sem, ↓fast_pow.pow_L_2TAG_PACKET_8_0_2_1_sem,
        ↓fast_pow.pow_L_2TAG_PACKET_0_0_2_3_sem, ↓fast_pow.pow_L_2TAG_PACKET_0_0_2_2_sem,
        ↓fast_pow.pow_L_2TAG_PACKET_0_0_2_1_sem, ↓fast_pow.pow_B1_2_1_sem,
        ↓fast_pow.pow_start_1_sem, ↓fast_pow.pow_entry_1_sem, ↓Machine.get_setx,
        ↓Machine.get_setg, ↓Machine.get_setstk, ↓Machine.get_enter, ↓Machine.get_setFlags,
        ↓Machine.trace_set, ↓Machine.get_ite, ↓Machine.trace_ite, ↓Machine.obs_eq_get,
        ↓Machine.flags_get, ↓Machine.flags_trace, ↓sem_get_1, ↓sem_get_2, ↓sem_get_3,
        ↓sem_get_4, ↓sem_trace_1, ↓sem_trace_2, ↓sem_trace_3, ↓sem_trace_4, ↓load_const,
        cc_iff, ea, and_imm, and_imm_left, ilog2_lit, or_eq_zero, or_mod32, or_lt_2p31,
        Nat.mod_mod, Nat.zero_or, Nat.or_zero, Nat.sub_zero, Nat.add_mod_right, lane_eq,
        Machine.io_eq_get, Nat.xor_self, Loc.x.injEq, Loc.g.injEq, Loc.m.injEq,
        Bool.toNat_eq_zero, Bool.toNat_eq_one, Nat.reducePow, Nat.reduceMul,
        Nat.reduceMod, Nat.reduceAdd, Nat.reduceSub, Nat.reduceDiv, Nat.reduceEqDiff,
        Nat.reduceLTLE, Nat.reduceLeDiff, Nat.reduceLT, Nat.reduceGT, Nat.reduceOr,
        Nat.reduceXor, reduceCtorEq, Bool.not_eq_true', Bool.not_eq_true,
        decide_eq_true_eq, decide_eq_false_iff_not, Bool.and_eq_true, Bool.or_eq_true,
        bne_iff_ne, beq_iff_eq, ne_eq, Bool.not_eq_false', Bool.not_eq_false, decide_not,
        not_not, Bool.decide_eq_true, Bool.false_eq_true, Bool.true_eq_false,
        not_false_eq_true, not_true_eq_false, and_true, true_and, and_false, false_and,
        or_true, true_or, or_false, false_or, not_true, not_false_iff, iff_self, true_iff,
        iff_true, false_iff, iff_false, ite_self, decide_eq_decide, decide_False,
        decide_True, Bool.not_true, Bool.not_false]
    all_goals omega
  · set_option maxRecDepth 8000 in
    simp only [
        ↓reduceIte, ↓fast_pow.pow_L_2TAG_PACKET_9_0_2_1_sem,
        ↓fast_pow.pow_L_2TAG_PACKET_8_0_2_1_sem, ↓fast_pow.pow_L_2TAG_PACKET_0_0_2_3_sem,
        ↓fast_pow.pow_L_2TAG_PACKET_0_0_2_2_sem, ↓fast_pow.pow_L_2TAG_PACKET_0_0_2_1_sem,
        ↓fast_pow.pow_B1_2_1_sem, ↓fast_pow.pow_start_1_sem, ↓fast_pow.pow_entry_1_sem,
        ↓Machine.get_setx, ↓Machine.get_setg, ↓Machine.get_setstk, ↓Machine.get_enter,
        ↓Machine.get_setFlags, ↓Machine.trace_set, ↓Machine.get_ite, ↓Machine.trace_ite,
        ↓Machine.obs_eq_get, ↓Machine.flags_get, ↓Machine.flags_trace, ↓sem_get_1,
        ↓sem_get_2, ↓sem_get_3, ↓sem_get_4, ↓sem_trace_1, ↓sem_trace_2, ↓sem_trace_3,
        ↓sem_trace_4, ↓load_const, cc_iff, ea, and_imm, and_imm_left, ilog2_lit,
        or_eq_zero, or_mod32, or_lt_2p31, Nat.mod_mod, Nat.zero_or, Nat.or_zero,
        Nat.sub_zero, Nat.add_mod_right, lane_eq, Machine.io_eq_get, Nat.xor_self,
        Loc.x.injEq, Loc.g.injEq, Loc.m.injEq, Bool.toNat_eq_zero, Bool.toNat_eq_one,
        Nat.reducePow, Nat.reduceMul, Nat.reduceMod, Nat.reduceAdd, Nat.reduceSub,
        Nat.reduceDiv, Nat.reduceEqDiff, Nat.reduceLTLE, Nat.reduceLeDiff, Nat.reduceLT,
        Nat.reduceGT, Nat.reduceOr, Nat.reduceXor, reduceCtorEq, Bool.not_eq_true',
        Bool.not_eq_true, decide_eq_true_eq, decide_eq_false_iff_not, Bool.and_eq_true,
        Bool.or_eq_true, bne_iff_ne, beq_iff_eq, ne_eq, Bool.not_eq_false',
        Bool.not_eq_false, decide_not, not_not, Bool.decide_eq_true, Bool.false_eq_true,
        Bool.true_eq_false, not_false_eq_true, not_true_eq_false, and_true, true_and,
        and_false, false_and, or_true, true_or, or_false, false_or, not_true,
        not_false_iff, iff_self, true_iff, iff_true, false_iff, iff_false, ite_self,
        decide_eq_decide, decide_False, decide_True, Bool.not_true, Bool.not_false]
    all_goals omega
  · set_option maxRecDepth 8000 in
    simp only [
        ↓reduceIte, ↓fast_pow.pow_L_2TAG_PACKET_8_0_2_1_sem,
        ↓fast_pow.pow_L_2TAG_PACKET_0_0_2_3_sem, ↓fast_pow.pow_L_2TAG_PACKET_0_0_2_2_sem,
        ↓fast_pow.pow_L_2TAG_PACKET_0_0_2_1_sem, ↓fast_pow.pow_B1_2_1_sem,
        ↓fast_pow.pow_start_1_sem, ↓fast_pow.pow_entry_1_sem, ↓Machine.get_setx,
        ↓Machine.get_setg, ↓Machine.get_setstk, ↓Machine.get_enter, ↓Machine.get_setFlags,
        ↓Machine.trace_set, ↓Machine.get_ite, ↓Machine.trace_ite, ↓Machine.obs_eq_get,
        ↓Machine.flags_get, ↓Machine.flags_trace, ↓sem_get_1, ↓sem_get_2, ↓sem_get_3,
        ↓sem_get_4, ↓sem_trace_1, ↓sem_trace_2, ↓sem_trace_3, ↓sem_trace_4, ↓load_const,
        cc_iff, ea, and_imm, and_imm_left, ilog2_lit, or_eq_zero, or_mod32, or_lt_2p31,
        Nat.mod_mod, Nat.zero_or, Nat.or_zero, Nat.sub_zero, Nat.add_mod_right, lane_eq,
        Machine.io_eq_get, Nat.xor_self, Loc.x.injEq, Loc.g.injEq, Loc.m.injEq,
        Bool.toNat_eq_zero, Bool.toNat_eq_one, Nat.reducePow, Nat.reduceMul,
        Nat.reduceMod, Nat.reduceAdd, Nat.reduceSub, Nat.reduceDiv, Nat.reduceEqDiff,
        Nat.reduceLTLE, Nat.reduceLeDiff, Nat.reduceLT, Nat.reduceGT, Nat.reduceOr,
        Nat.reduceXor, reduceCtorEq, Bool.not_eq_true', Bool.not_eq_true,
        decide_eq_true_eq, decide_eq_false_iff_not, Bool.and_eq_true, Bool.or_eq_true,
        bne_iff_ne, beq_iff_eq, ne_eq, Bool.not_eq_false', Bool.not_eq_false, decide_not,
        not_not, Bool.decide_eq_true, Bool.false_eq_true, Bool.true_eq_false,
        not_false_eq_true, not_true_eq_false, and_true, true_and, and_false, false_and,
        or_true, true_or, or_false, false_or, not_true, not_false_iff, iff_self, true_iff,
        iff_true, false_iff, iff_false, ite_self, decide_eq_decide, decide_False,
        decide_True, Bool.not_true, Bool.not_false]
    all_goals omega
  · set_option maxRecDepth 8000 in
    simp only [
        ↓reduceIte, ↓fast_pow.pow_L_2TAG_PACKET_0_0_2_2_sem,
        ↓fast_pow.pow_L_2TAG_PACKET_0_0_2_1_sem, ↓fast_pow.pow_B1_2_1_sem,
        ↓fast_pow.pow_start_1_sem, ↓fast_pow.pow_entry_1_sem, ↓Machine.get_setx,
        ↓Machine.get_setg, ↓Machine.get_setstk, ↓Machine.get_enter, ↓Machine.get_setFlags,
        ↓Machine.trace_set, ↓Machine.get_ite, ↓Machine.trace_ite, ↓Machine.obs_eq_get,
        ↓Machine.flags_get, ↓Machine.flags_trace, ↓sem_get_1, ↓sem_get_2, ↓sem_get_3,
        ↓sem_get_4, ↓sem_trace_1, ↓sem_trace_2, ↓sem_trace_3, ↓sem_trace_4, ↓load_const,
        cc_iff, ea, and_imm, and_imm_left, ilog2_lit, or_eq_zero, or_mod32, or_lt_2p31,
        Nat.mod_mod, Nat.zero_or, Nat.or_zero, Nat.sub_zero, Nat.add_mod_right, lane_eq,
        Machine.io_eq_get, Nat.xor_self, Loc.x.injEq, Loc.g.injEq, Loc.m.injEq,
        Bool.toNat_eq_zero, Bool.toNat_eq_one, Nat.reducePow, Nat.reduceMul,
        Nat.reduceMod, Nat.reduceAdd, Nat.reduceSub, Nat.reduceDiv, Nat.reduceEqDiff,
        Nat.reduceLTLE, Nat.reduceLeDiff, Nat.reduceLT, Nat.reduceGT, Nat.reduceOr,
        Nat.reduceXor, reduceCtorEq, Bool.not_eq_true', Bool.not_eq_true,
        decide_eq_true_eq, decide_eq_false_iff_not, Bool.and_eq_true, Bool.or_eq_true,
        bne_iff_ne, beq_iff_eq, ne_eq, Bool.not_eq_false', Bool.not_eq_false, decide_not,
        not_not, Bool.decide_eq_true, Bool.false_eq_true, Bool.true_eq_false,
        not_false_eq_true, not_true_eq_false, and_true, true_and, and_false, false_and,
        or_true, true_or, or_false, false_or, not_true, not_false_iff, iff_self, true_iff,
        iff_true, false_iff, iff_false, ite_self, decide_eq_decide, decide_False,
        decide_True, Bool.not_true, Bool.not_false]
    all_goals omega
  · set_option maxRecDepth 8000 in
    simp only [
        ↓reduceIte, ↓fast_pow.pow_L_2TAG_PACKET_0_0_2_1_sem, ↓fast_pow.pow_B1_2_1_sem,
        ↓fast_pow.pow_start_1_sem, ↓fast_pow.pow_entry_1_sem, ↓Machine.get_setx,
        ↓Machine.get_setg, ↓Machine.get_setstk, ↓Machine.get_enter, ↓Machine.get_setFlags,
        ↓Machine.trace_set, ↓Machine.get_ite, ↓Machine.trace_ite, ↓Machine.obs_eq_get,
        ↓Machine.flags_get, ↓Machine.flags_trace, ↓sem_get_1, ↓sem_get_2, ↓sem_get_3,
        ↓sem_get_4, ↓sem_trace_1, ↓sem_trace_2, ↓sem_trace_3, ↓sem_trace_4, ↓load_const,
        cc_iff, ea, and_imm, and_imm_left, ilog2_lit, or_eq_zero, or_mod32, or_lt_2p31,
        Nat.mod_mod, Nat.zero_or, Nat.or_zero, Nat.sub_zero, Nat.add_mod_right, lane_eq,
        Machine.io_eq_get, Nat.xor_self, Loc.x.injEq, Loc.g.injEq, Loc.m.injEq,
        Bool.toNat_eq_zero, Bool.toNat_eq_one, Nat.reducePow, Nat.reduceMul,
        Nat.reduceMod, Nat.reduceAdd, Nat.reduceSub, Nat.reduceDiv, Nat.reduceEqDiff,
        Nat.reduceLTLE, Nat.reduceLeDiff, Nat.reduceLT, Nat.reduceGT, Nat.reduceOr,
        Nat.reduceXor, reduceCtorEq, Bool.not_eq_true', Bool.not_eq_true,
        decide_eq_true_eq, decide_eq_false_iff_not, Bool.and_eq_true, Bool.or_eq_true,
        bne_iff_ne, beq_iff_eq, ne_eq, Bool.not_eq_false', Bool.not_eq_false, decide_not,
        not_not, Bool.decide_eq_true, Bool.false_eq_true, Bool.true_eq_false,
        not_false_eq_true, not_true_eq_false, and_true, true_and, and_false, false_and,
        or_true, true_or, or_false, false_or, not_true, not_false_iff, iff_self, true_iff,
        iff_true, false_iff, iff_false, ite_self, decide_eq_decide, decide_False,
        decide_True, Bool.not_true, Bool.not_false]
    all_goals omega
  · set_option maxRecDepth 8000 in
    simp only [
        ↓reduceIte, ↓fast_pow.pow_B1_2_1_sem, ↓fast_pow.pow_start_1_sem,
        ↓fast_pow.pow_entry_1_sem, ↓Machine.get_setx, ↓Machine.get_setg,
        ↓Machine.get_setstk, ↓Machine.get_enter, ↓Machine.get_setFlags,
        ↓Machine.trace_set, ↓Machine.get_ite, ↓Machine.trace_ite, ↓Machine.obs_eq_get,
        ↓Machine.flags_get, ↓Machine.flags_trace, ↓sem_get_1, ↓sem_get_2, ↓sem_get_3,
        ↓sem_get_4, ↓sem_trace_1, ↓sem_trace_2, ↓sem_trace_3, ↓sem_trace_4, ↓load_const,
        cc_iff, ea, and_imm, and_imm_left, ilog2_lit, or_eq_zero, or_mod32, or_lt_2p31,
        Nat.mod_mod, Nat.zero_or, Nat.or_zero, Nat.sub_zero, Nat.add_mod_right, lane_eq,
        Machine.io_eq_get, Nat.xor_self, Loc.x.injEq, Loc.g.injEq, Loc.m.injEq,
        Bool.toNat_eq_zero, Bool.toNat_eq_one, Nat.reducePow, Nat.reduceMul,
        Nat.reduceMod, Nat.reduceAdd, Nat.reduceSub, Nat.reduceDiv, Nat.reduceEqDiff,
        Nat.reduceLTLE, Nat.reduceLeDiff, Nat.reduceLT, Nat.reduceGT, Nat.reduceOr,
        Nat.reduceXor, reduceCtorEq, Bool.not_eq_true', Bool.not_eq_true,
        decide_eq_true_eq, decide_eq_false_iff_not, Bool.and_eq_true, Bool.or_eq_true,
        bne_iff_ne, beq_iff_eq, ne_eq, Bool.not_eq_false', Bool.not_eq_false, decide_not,
        not_not, Bool.decide_eq_true, Bool.false_eq_true, Bool.true_eq_false,
        not_false_eq_true, not_true_eq_false, and_true, true_and, and_false, false_and,
        or_true, true_or, or_false, false_or, not_true, not_false_iff, iff_self, true_iff,
        iff_true, false_iff, iff_false, ite_self, decide_eq_decide, decide_False,
        decide_True, Bool.not_true, Bool.not_false]
    all_goals omega

theorem pow_L45_nan (cpu : Cpu) (s : Machine)
    (hy : f64IsNaN (s.get (.m 16) % 2 ^ 64) = true) :
    (fast_pow.L_2TAG_PACKET_45_0_2 cpu s).result = f64Quiet (s.get (.m 16) % 2 ^ 64) ∨
      (fast_pow.L_2TAG_PACKET_45_0_2 cpu s).result = 0x7FF8000000000000 := by
  have hn := hy
  simp only [Nat.reducePow] at hn
  simp only [f64IsNaN, f64Exp, f64Man, decide_eq_true_eq, Nat.reducePow] at hy
  by_cases hc : cc_notEqual (fast_pow.L_2TAG_PACKET_45_0_2_1 cpu s) = true
  · left
    rw [
        fast_pow.pow_L_2TAG_PACKET_45_0_2_eq, if_pos,
        fast_pow.pow_L_2TAG_PACKET_53_0_2_eq, if_neg, fast_pow.pow_B1_5_eq]
    · set_option maxRecDepth 8000 in
      simp only [
          ↓reduceIte, Nat.mod_mod, ↓fast_pow.pow_B1_5_1_sem,
          ↓fast_pow.pow_L_2TAG_PACKET_53_0_2_2_sem,
          ↓fast_pow.pow_L_2TAG_PACKET_53_0_2_1_sem,
          ↓fast_pow.pow_L_2TAG_PACKET_45_0_2_1_sem, ↓Machine.get_setx,
          ↓Machine.get_setg, ↓Machine.get_setstk, ↓Machine.get_enter,
          ↓Machine.get_setFlags, ↓Machine.trace_set, ↓Machine.get_ite,
          ↓Machine.trace_ite, ↓Machine.obs_eq_get, ↓Machine.flags_get,
          ↓Machine.flags_trace, ↓sem_get_1, ↓sem_get_2, ↓sem_get_3, ↓sem_get_4,
          ↓sem_trace_1, ↓sem_trace_2, ↓sem_trace_3, ↓sem_trace_4, ↓load_const, cc_iff,
          ea, and_imm, and_imm_left, ilog2_lit, or_eq_zero, or_mod32, or_lt_2p31,
          Nat.mod_mod, Nat.zero_or, Nat.or_zero, Nat.sub_zero, Nat.add_mod_right,
          lane_eq, Machine.io_eq_get, Nat.xor_self, Loc.x.injEq, Loc.g.injEq,
          Loc.m.injEq, Bool.toNat_eq_zero, Bool.toNat_eq_one, Nat.reducePow,
          Nat.reduceMul, Nat.reduceMod, Nat.reduceAdd, Nat.reduceSub, Nat.reduceDiv,
          Nat.reduceEqDiff, Nat.reduceLTLE, Nat.reduceLeDiff, Nat.reduceLT,
          Nat.reduceGT, Nat.reduceOr, Nat.reduceXor, reduceCtorEq, Bool.not_eq_true',
          Bool.not_eq_true, decide_eq_true_eq, decide_eq_false_iff_not,
          Bool.and_eq_true, Bool.or_eq_true, bne_iff_ne, beq_iff_eq, ne_eq,
          Bool.not_eq_false', Bool.not_eq_false, decide_not, not_not,
          Bool.decide_eq_true, Bool.false_eq_true, Bool.true_eq_false,
          not_false_eq_true, not_true_eq_false, and_true, true_and, and_false,
          false_and, or_true, true_or, or_false, false_or, not_true, not_false_iff,
          iff_self, true_iff, iff_true, false_iff, iff_false, ite_self,
          decide_eq_decide, decide_False, decide_True, Bool.not_true, Bool.not_false]
      rw [f64Add_of_isNaN _ _ hn]
      have := f64Quiet_lt (s.get (.m 16) % 18446744073709551616) (by omega)
      all_goals omega
    · set_option maxRecDepth 8000 in
      simp only [
          ↓reduceIte, ↓fast_pow.pow_L_2TAG_PACKET_53_0_2_1_sem,
          ↓fast_pow.pow_L_2TAG_PACKET_45_0_2_1_sem, ↓Machine.get_setx,
          ↓Machine.get_setg, ↓Machine.get_setstk, ↓Machine.get_enter,
          ↓Machine.get_setFlags, ↓Machine.trace_set, ↓Machine.get_ite,
          ↓Machine.trace_ite, ↓Machine.obs_eq_get, ↓Machine.flags_get,
          ↓Machine.flags_trace, ↓sem_get_1, ↓sem_get_2, ↓sem_get_3, ↓sem_get_4,
          ↓sem_trace_1, ↓sem_trace_2, ↓sem_trace_3, ↓sem_trace_4, ↓load_const, cc_iff,
          ea, and_imm, and_imm_left, ilog2_lit, or_eq_zero, or_mod32, or_lt_2p31,
          Nat.mod_mod, Nat.zero_or, Nat.or_zero, Nat.sub_zero, Nat.add_mod_right,
          lane_eq, Machine.io_eq_get, Nat.xor_self, Loc.x.injEq, Loc.g.injEq,
          Loc.m.injEq, Bool.toNat_eq_zero, Bool.toNat_eq_one, Nat.reducePow,
          Nat.reduceMul, Nat.reduceMod, Nat.reduceAdd, Nat.reduceSub, Nat.reduceDiv,
          Nat.reduceEqDiff, Nat.reduceLTLE, Nat.reduceLeDiff, Nat.reduceLT,
          Nat.reduceGT, Nat.reduceOr, Nat.reduceXor, reduceCtorEq, Bool.not_eq_true',
          Bool.not_eq_true, decide_eq_true_eq, decide_eq_false_iff_not,
          Bool.and_eq_true, Bool.or_eq_true, bne_iff_ne, beq_iff_eq, ne_eq,
          Bool.not_eq_false', Bool.not_eq_false, decide_not, not_not,
          Bool.decide_eq_true, Bool.false_eq_true, Bool.true_eq_false,
          not_false_eq_true, not_true_eq_false, and_true, true_and, and_false,
          false_and, or_true, true_or, or_false, false_or, not_true, not_false_iff,
          iff_self, true_iff, iff_true, false_iff, iff_false, ite_self,
          decide_eq_decide, decide_False, decide_True, Bool.not_true, Bool.not_false]
      all_goals omega
    · exact hc
  · right
    rw [
        fast_pow.pow_L_2TAG_PACKET_45_0_2_eq, if_neg, fast_pow.pow_B1_5_eq]
    · set_option maxRecDepth 8000 in
      simp only [
          ↓reduceIte, ↓fast_pow.pow_B1_5_1_sem,
          ↓fast_pow.pow_L_2TAG_PACKET_45_0_2_2_sem,
          ↓fast_pow.pow_L_2TAG_PACKET_45_0_2_1_sem, ↓Machine.get_setx,
          ↓Machine.get_setg, ↓Machine.get_setstk, ↓Machine.get_enter,
          ↓Machine.get_setFlags, ↓Machine.trace_set, ↓Machine.get_ite,
          ↓Machine.trace_ite, ↓Machine.obs_eq_get, ↓Machine.flags_get,
          ↓Machine.flags_trace, ↓sem_get_1, ↓sem_get_2, ↓sem_get_3, ↓sem_get_4,
          ↓sem_trace_1, ↓sem_trace_2, ↓sem_trace_3, ↓sem_trace_4, ↓load_const, cc_iff,
          ea, and_imm, and_imm_left, ilog2_lit, or_eq_zero, or_mod32, or_lt_2p31,
          Nat.mod_mod, Nat.zero_or, Nat.or_zero, Nat.sub_zero, Nat.add_mod_right,
          lane_eq, Machine.io_eq_get, Nat.xor_self, Loc.x.injEq, Loc.g.injEq,
          Loc.m.injEq, Bool.toNat_eq_zero, Bool.toNat_eq_one, Nat.reducePow,
          Nat.reduceMul, Nat.reduceMod, Nat.reduceAdd, Nat.reduceSub, Nat.reduceDiv,
          Nat.reduceEqDiff, Nat.reduceLTLE, Nat.reduceLeDiff, Nat.reduceLT,
          Nat.reduceGT, Nat.reduceOr, Nat.reduceXor, reduceCtorEq, Bool.not_eq_true',
          Bool.not_eq_true, decide_eq_true_eq, decide_eq_false_iff_not,
          Bool.and_eq_true, Bool.or_eq_true, bne_iff_ne, beq_iff_eq, ne_eq,
          Bool.not_eq_false', Bool.not_eq_false, decide_not, not_not,
          Bool.decide_eq_true, Bool.false_eq_true, Bool.true_eq_false,
          not_false_eq_true, not_true_eq_false, and_true, true_and, and_false,
          false_and, or_true, true_or, or_false, false_or, not_true, not_false_iff,
          iff_self, true_iff, iff_true, false_iff, iff_false, ite_self,
          decide_eq_decide, decide_False, decide_True, Bool.not_true, Bool.not_false]
    · exact hc

theorem fast_pow_nan_y_pos_run (cpu : Cpu) (s : Machine)
    (h0 : 0 < s.arg0) (hx : s.arg0 < 0x7FF0000000000000)
    (hy : f64IsNaN s.arg1 = true) :
    (fast_pow cpu s).result = f64Quiet s.arg1 ∨
      (fast_pow cpu s).result = 0x7FF8000000000000 := by
  have hy2 : s.arg1 / 2 ^ 52 % 2048 = 2047 := by
    simp only [f64IsNaN, f64Exp, decide_eq_true_eq] at hy
    exact hy.1
  have hlt1 := arg1_lt s
  have hpre : ∃ t, fast_pow cpu s = fast_pow.L_2TAG_PACKET_45_0_2 cpu t ∧
      t.get (.m 8) = s.arg0 ∧ t.get (.m 16) = s.arg1 := by
    rcases Nat.lt_or_ge (s.arg0 / 2 ^ 48) 16 with ha | ha
    · exact pow_to_L45_denormal cpu s h0 ha hy2
    · by_cases hc : s.arg0 / 2 ^ 48 = 16367 ∨ s.arg0 / 2 ^ 48 = 16368
      · exact pow_to_L45_near_one cpu s hc hy2
      · exact pow_to_L45_normal cpu s ha (by omega) (fun h => hc (Or.inl h))
          (fun h => hc (Or.inr h)) hy2
  obtain ⟨t, ht, -, h16⟩ := hpre
  have e16 : t.get (.m 16) % 2 ^ 64 = s.arg1 := by
    rw [h16]
    exact Nat.mod_eq_of_lt hlt1
  have key := pow_L45_nan cpu t (by rw [e16]; exact hy)
  rw [e16] at key
  rw [ht]
  exact key

theorem fast_pow_nan_y_run (cpu : Cpu) (s : Machine) (hx : f64IsNaN s.arg0 = false)
    (hy : f64IsNaN s.arg1 = true) :
    (fast_pow cpu s).result = f64Quiet s.arg1 ∨
      (fast_pow cpu s).result = 0x7FF8000000000000 := by
  have hlt := arg0_lt s
  simp only [f64IsNaN, f64Exp, f64Man, decide_eq_false_iff_not, Nat.reducePow] at hx
  rcases Nat.lt_or_ge s.arg0 0x8000000000000000 with hs | hs
  · rcases Nat.eq_zero_or_pos s.arg0 with h0 | h0
    · exact Or.inl (fast_pow_nan_y_pzero_run cpu s h0 hy)
    rcases Nat.lt_or_ge s.arg0 0x7FF0000000000000 with hb | hb
    · exact fast_pow_nan_y_pos_run cpu s h0 hb hy
    · exact Or.inl (fast_pow_nan_y_inf_run cpu s (Or.inl (by omega)) hy)
  · rcases Nat.eq_or_lt_of_le hs with he | he
    · exact Or.inl (fast_pow_nan_y_nzero_run cpu s he.symm hy)
    rcases Nat.lt_or_ge s.arg0 0xFFF0000000000000 with hb | hb
    · exact Or.inl (fast_pow_nan_y_neg_run cpu s he hb hy)
    · exact Or.inl (fast_pow_nan_y_inf_run cpu s (Or.inr (by omega)) hy)

/-- C7: when `x` or `y` is a NaN, `fast_pow(x, y)` is a NaN exactly when `y` is not `±0`; for
`y = ±0` the early exit returns `1.0`. -/
theorem fast_pow_nan_operand (cpu : Cpu) (s : Machine)
    (h : f64IsNaN s.arg0 = true ∨ f64IsNaN s.arg1 = true) :
    (f64IsZero s.arg1 = false → f64IsNaN (fast_pow cpu s).result = true) ∧
    (f64IsZero s.arg1 = true → (fast_pow cpu s).result = 0x3FF0000000000000) := by
  constructor
  · intro h0
    by_cases hx : f64IsNaN s.arg0 = true
    · rw [fast_pow_nan_x_run cpu s hx h0]
      exact f64Quiet_isNaN _ hx
    · have hy : f64IsNaN s.arg1 = true := h.resolve_left hx
      rcases fast_pow_nan_y_run cpu s (Bool.eq_false_iff.2 hx) hy with e | e
      · rw [e]
        exact f64Quiet_isNaN _ hy
      · rw [e]
        decide
  · intro h0
    have hlt := arg1_lt s
    have hz : s.arg1 = 0 ∨ s.arg1 = 0x8000000000000000 := by
      simp only [f64IsZero, f64Exp, f64Man, decide_eq_true_eq, Nat.reducePow] at h0
      omega
    have hx : f64IsNaN s.arg0 = true := by
      refine h.resolve_right ?_
      rcases hz with e | e <;> rw [e] <;> decide
    exact fast_pow_zero_nan_run cpu s hx hz

theorem fast_pow_nan_operand_witness :
    (f64IsNaN (Machine.init 0x4000000000000000 0x7FF0000000000001).arg0 = true ∨
      f64IsNaN (Machine.init 0x4000000000000000 0x7FF0000000000001).arg1 = true) ∧
    f64IsZero (Machine.init 0x4000000000000000 0x7FF0000000000001).arg1 = false ∧
    f64IsNaN (fast_pow Cpu.sample
      (Machine.init 0x4000000000000000 0x7FF0000000000001)).result = true :=
  ⟨by decide, by decide, (fast_pow_nan_operand Cpu.sample
    (Machine.init 0x4000000000000000 0x7FF0000000000001) (by decide)).1 (by decide)⟩

end MacroAssembler

namespace MacroAssembler
open XReg GReg Machine

/-! ### `fast_pow` with base `+1` -/

theorem fast_pow_one_zero_run (cpu : Cpu) (s : Machine) (hx : s.arg0 = 0x3FF0000000000000)
    (hy : s.arg1 = 0 ∨ s.arg1 = 0x8000000000000000) :
    (fast_pow cpu s).result = 0x3FF0000000000000 := by
  simp only [Machine.io_eq_get, Nat.reducePow] at hx hy
  have h3 : s.get (.x xmm0) / 281474976710656 % 65536 = 16368 := by omega
  rw [
      fast_pow, fast_pow.pow_entry_eq, fast_pow.pow_start_eq, fast_pow.pow_B1_2_eq, if_neg,
      fast_pow.pow_L_2TAG_PACKET_1_0_2_eq, if_pos, fast_pow.pow_L_2TAG_PACKET_2_0_2_eq,
      if_pos, fast_pow.pow_L_2TAG_PACKET_3_0_2_eq, fast_pow.pow_L_2TAG_PACKET_4_0_2_eq,
      if_pos, fast_pow.pow_L_2TAG_PACKET_5_0_2_eq, if_pos,
      fast_pow.pow_L_2TAG_PACKET_11_0_2_eq, if_pos, fast_pow.pow_L_2TAG_PACKET_38_0_2_eq,
      fast_pow.pow_L_2TAG_PACKET_37_0_2_eq, fast_pow.pow_B1_5_eq]
  · set_option maxRecDepth 8000 in
    simp only [
        ↓reduceIte, hx, h3, ↓fast_pow.pow_B1_5_1_sem,
        ↓fast_pow.pow_L_2TAG_PACKET_37_0_2_1_sem,
        ↓fast_pow.pow_L_2TAG_PACKET_38_0_2_1_sem,
        ↓fast_pow.pow_L_2TAG_PACKET_11_0_2_1_sem, ↓fast_pow.pow_L_2TAG_PACKET_5_0_2_1_sem,
        ↓fast_pow.pow_L_2TAG_PACKET_4_0_2_1_sem, ↓fast_pow.pow_L_2TAG_PACKET_3_0_2_1_sem,
        ↓fast_pow.pow_L_2TAG_PACKET_2_0_2_1_sem, ↓fast_pow.pow_L_2TAG_PACKET_1_0_2_1_sem,
        ↓fast_pow.pow_B1_2_2_sem, ↓fast_pow.pow_B1_2_1_sem, ↓fast_pow.pow_start_1_sem,
        ↓fast_pow.pow_entry_1_sem, ↓Machine.get_setx, ↓Machine.get_setg,
        ↓Machine.get_setstk, ↓Machine.get_enter, ↓Machine.get_setFlags,
        ↓Machine.trace_set, ↓Machine.get_ite, ↓Machine.trace_ite, ↓Machine.obs_eq_get,
        ↓Machine.flags_get, ↓Machine.flags_trace, ↓sem_get_1, ↓sem_get_2, ↓sem_get_3,
        ↓sem_get_4, ↓sem_trace_1, ↓sem_trace_2, ↓sem_trace_3, ↓sem_trace_4, ↓load_const,
        cc_iff, ea, and_imm, and_imm_left, ilog2_lit, or_eq_zero, or_mod32, or_lt_2p31,
        Nat.mod_mod, Nat.zero_or, Nat.or_zero, Nat.sub_zero, Nat.add_mod_right, lane_eq,
        Machine.io_eq_get, Nat.xor_self, Loc.x.injEq, Loc.g.injEq, Loc.m.injEq,
        Bool.toNat_eq_zero, Bool.toNat_eq_one, Nat.reducePow, Nat.reduceMul,
        Nat.reduceMod, Nat.reduceAdd, Nat.reduceSub, Nat.reduceDiv, Nat.reduceEqDiff,
        Nat.reduceLTLE, Nat.reduceLeDiff, Nat.reduceLT, Nat.reduceGT, Nat.reduceOr,
        Nat.reduceXor, reduceCtorEq, Bool.not_eq_true', Bool.not_eq_true,
        decide_eq_true_eq, decide_eq_false_iff_not, Bool.and_eq_true, Bool.or_eq_true,
        bne_iff_ne, beq_iff_eq, ne_eq, Bool.not_eq_false', Bool.not_eq_false, decide_not,
        not_not, Bool.decide_eq_true, Bool.false_eq_true, Bool.true_eq_false,
        not_false_eq_true, not_true_eq_false, and_true, true_and, and_false, false_and,
        or_true, true_or, or_false, false_or, not_true, not_false_iff, iff_self, true_iff,
        iff_true, false_iff, iff_false, ite_self, decide_eq_decide, decide_False,
        decide_True, Bool.not_true, Bool.not_false]
  · set_option maxRecDepth 8000 in
    simp only [
        ↓reduceIte, hx, h3, ↓fast_pow.pow_L_2TAG_PACKET_11_0_2_1_sem,
        ↓fast_pow.pow_L_2TAG_PACKET_5_0_2_1_sem, ↓fast_pow.pow_L_2TAG_PACKET_4_0_2_1_sem,
        ↓fast_pow.pow_L_2TAG_PACKET_3_0_2_1_sem, ↓fast_pow.pow_L_2TAG_PACKET_2_0_2_1_sem,
        ↓fast_pow.pow_L_2TAG_PACKET_1_0_2_1_sem, ↓fast_pow.pow_B1_2_2_sem,
        ↓fast_pow.pow_B1_2_1_sem, ↓fast_pow.pow_start_1_sem, ↓fast_pow.pow_entry_1_sem,
        ↓Machine.get_setx, ↓Machine.get_setg, ↓Machine.get_setstk, ↓Machine.get_enter,
        ↓Machine.get_setFlags, ↓Machine.trace_set, ↓Machine.get_ite, ↓Machine.trace_ite,
        ↓Machine.obs_eq_get, ↓Machine.flags_get, ↓Machine.flags_trace, ↓sem_get_1,
        ↓sem_get_2, ↓sem_get_3, ↓sem_get_4, ↓sem_trace_1, ↓sem_trace_2, ↓sem_trace_3,
        ↓sem_trace_4, ↓load_const, cc_iff, ea, and_imm, and_imm_left, ilog2_lit,
        or_eq_zero, or_mod32, or_lt_2p31, Nat.mod_mod, Nat.zero_or, Nat.or_zero,
        Nat.sub_zero, Nat.add_mod_right, lane_eq, Machine.io_eq_get, Nat.xor_self,
        Loc.x.injEq, Loc.g.injEq, Loc.m.injEq, Bool.toNat_eq_zero, Bool.toNat_eq_one,
        Nat.reducePow, Nat.reduceMul, Nat.reduceMod, Nat.reduceAdd, Nat.reduceSub,
        Nat.reduceDiv, Nat.reduceEqDiff, Nat.reduceLTLE, Nat.reduceLeDiff, Nat.reduceLT,
        Nat.reduceGT, Nat.reduceOr, Nat.reduceXor, reduceCtorEq, Bool.not_eq_true',
        Bool.not_eq_true, decide_eq_true_eq, decide_eq_false_iff_not, Bool.and_eq_true,
        Bool.or_eq_true, bne_iff_ne, beq_iff_eq, ne_eq, Bool.not_eq_false',
        Bool.not_eq_false, decide_not, not_not, Bool.decide_eq_true, Bool.false_eq_true,
        Bool.true_eq_false, not_false_eq_true, not_true_eq_false, and_true, true_and,
        and_false, false_and, or_true, true_or, or_false, false_or, not_true,
        not_false_iff, iff_self, true_iff, iff_true, false_iff, iff_false, ite_self,
        decide_eq_decide, decide_False, decide_True, Bool.not_true, Bool.not_false]
    all_goals omega
  · set_option maxRecDepth 8000 in
    simp only [
        ↓reduceIte, hx, h3, ↓fast_pow.pow_L_2TAG_PACKET_5_0_2_1_sem,
        ↓fast_pow.pow_L_2TAG_PACKET_4_0_2_1_sem, ↓fast_pow.pow_L_2TAG_PACKET_3_0_2_1_sem,
        ↓fast_pow.pow_L_2TAG_PACKET_2_0_2_1_sem, ↓fast_pow.pow_L_2TAG_PACKET_1_0_2_1_sem,
        ↓fast_pow.pow_B1_2_2_sem, ↓fast_pow.pow_B1_2_1_sem, ↓fast_pow.pow_start_1_sem,
        ↓fast_pow.pow_entry_1_sem, ↓Machine.get_setx, ↓Machine.get_setg,
        ↓Machine.get_setstk, ↓Machine.get_enter, ↓Machine.get_setFlags,
        ↓Machine.trace_set, ↓Machine.get_ite, ↓Machine.trace_ite, ↓Machine.obs_eq_get,
        ↓Machine.flags_get, ↓Machine.flags_trace, ↓sem_get_1, ↓sem_get_2, ↓sem_get_3,
        ↓sem_get_4, ↓sem_trace_1, ↓sem_trace_2, ↓sem_trace_3, ↓sem_trace_4, ↓load_const,
        cc_iff, ea, and_imm, and_imm_left, ilog2_lit, or_eq_zero, or_mod32, or_lt_2p31,
        Nat.mod_mod, Nat.zero_or, Nat.or_zero, Nat.sub_zero, Nat.add_mod_right, lane_eq,
        Machine.io_eq_get, Nat.xor_self, Loc.x.injEq, Loc.g.injEq, Loc.m.injEq,
        Bool.toNat_eq_zero, Bool.toNat_eq_one, Nat.reducePow, Nat.reduceMul,
        Nat.reduceMod, Nat.reduceAdd, Nat.reduceSub, Nat.reduceDiv, Nat.reduceEqDiff,
        Nat.reduceLTLE, Nat.reduceLeDiff, Nat.reduceLT, Nat.reduceGT, Nat.reduceOr,
        Nat.reduceXor, reduceCtorEq, Bool.not_eq_true', Bool.not_eq_true,
        decide_eq_true_eq, decide_eq_false_iff_not, Bool.and_eq_true, Bool.or_eq_true,
        bne_iff_ne, beq_iff_eq, ne_eq, Bool.not_eq_false', Bool.not_eq_false, decide_not,
        not_not, Bool.decide_eq_true, Bool.false_eq_true, Bool.true_eq_false,
        not_false_eq_true, not_true_eq_false, and_true, true_and, and_false, false_and,
        or_true, true_or, or_false, false_or, not_true, not_false_iff, iff_self, true_iff,
        iff_true, false_iff, iff_false, ite_self, decide_eq_decide, decide_False,
        decide_True, Bool.not_true, Bool.not_false]
    all_goals omega
  · set_option maxRecDepth 8000 in
    simp only [
        ↓reduceIte, hx, h3, ↓fast_pow.pow_L_2TAG_PACKET_4_0_2_1_sem,
        ↓fast_pow.pow_L_2TAG_PACKET_3_0_2_1_sem, ↓fast_pow.pow_L_2TAG_PACKET_2_0_2_1_sem,
        ↓fast_pow.pow_L_2TAG_PACKET_1_0_2_1_sem, ↓fast_pow.pow_B1_2_2_sem,
        ↓fast_pow.pow_B1_2_1_sem, ↓fast_pow.pow_start_1_sem, ↓fast_pow.pow_entry_1_sem,
        ↓Machine.get_setx, ↓Machine.get_setg, ↓Machine.get_setstk, ↓Machine.get_enter,
        ↓Machine.get_setFlags, ↓Machine.trace_set, ↓Machine.get_ite, ↓Machine.trace_ite,
        ↓Machine.obs_eq_get, ↓Machine.flags_get, ↓Machine.flags_trace, ↓sem_get_1,
        ↓sem_get_2, ↓sem_get_3, ↓sem_get_4, ↓sem_trace_1, ↓sem_trace_2, ↓sem_trace_3,
        ↓sem_trace_4, ↓load_const, cc_iff, ea, and_imm, and_imm_left, ilog2_lit,
        or_eq_zero, or_mod32, or_lt_2p31, Nat.mod_mod, Nat.zero_or, Nat.or_zero,
        Nat.sub_zero, Nat.add_mod_right, lane_eq, Machine.io_eq_get, Nat.xor_self,
        Loc.x.injEq, Loc.g.injEq, Loc.m.injEq, Bool.toNat_eq_zero, Bool.toNat_eq_one,
        Nat.reducePow, Nat.reduceMul, Nat.reduceMod, Nat.reduceAdd, Nat.reduceSub,
        Nat.reduceDiv, Nat.reduceEqDiff, Nat.reduceLTLE, Nat.reduceLeDiff, Nat.reduceLT,
        Nat.reduceGT, Nat.reduceOr, Nat.reduceXor, reduceCtorEq, Bool.not_eq_true',
        Bool.not_eq_true, decide_eq_true_eq, decide_eq_false_iff_not, Bool.and_eq_true,
        Bool.or_eq_true, bne_iff_ne, beq_iff_eq, ne_eq, Bool.not_eq_false',
        Bool.not_eq_false, decide_not, not_not, Bool.decide_eq_true, Bool.false_eq_true,
        Bool.true_eq_false, not_false_eq_true, not_true_eq_false, and_true, true_and,
        and_false, false_and, or_true, true_or, or_false, false_or, not_true,
        not_false_iff, iff_self, true_iff, iff_true, false_iff, iff_false, ite_self,
        decide_eq_decide, decide_False, decide_True, Bool.not_true, Bool.not_false]
    all_goals omega
  · set_option maxRecDepth 8000 in
    simp only [
        ↓reduceIte, hx, h3, ↓fast_pow.pow_L_2TAG_PACKET_2_0_2_1_sem,
        ↓fast_pow.pow_L_2TAG_PACKET_1_0_2_1_sem, ↓fast_pow.pow_B1_2_2_sem,
        ↓fast_pow.pow_B1_2_1_sem, ↓fast_pow.pow_start_1_sem, ↓fast_pow.pow_entry_1_sem,
        ↓Machine.get_setx, ↓Machine.get_setg, ↓Machine.get_setstk, ↓Machine.get_enter,
        ↓Machine.get_setFlags, ↓Machine.trace_set, ↓Machine.get_ite, ↓Machine.trace_ite,
        ↓Machine.obs_eq_get, ↓Machine.flags_get, ↓Machine.flags_trace, ↓sem_get_1,
        ↓sem_get_2, ↓sem_get_3, ↓sem_get_4, ↓sem_trace_1, ↓sem_trace_2, ↓sem_trace_3,
        ↓sem_trace_4, ↓load_const, cc_iff, ea, and_imm, and_imm_left, ilog2_lit,
        or_eq_zero, or_mod32, or_lt_2p31, Nat.mod_mod, Nat.zero_or, Nat.or_zero,
        Nat.sub_zero, Nat.add_mod_right, lane_eq, Machine.io_eq_get, Nat.xor_self,
        Loc.x.injEq, Loc.g.injEq, Loc.m.injEq, Bool.toNat_eq_zero, Bool.toNat_eq_one,
        Nat.reducePow, Nat.reduceMul, Nat.reduceMod, Nat.reduceAdd, Nat.reduceSub,
        Nat.reduceDiv, Nat.reduceEqDiff, Nat.reduceLTLE, Nat.reduceLeDiff, Nat.reduceLT,
        Nat.reduceGT, Nat.reduceOr, Nat.reduceXor, reduceCtorEq, Bool.not_eq_true',
        Bool.not_eq_true, decide_eq_true_eq, decide_eq_false_iff_not, Bool.and_eq_true,
        Bool.or_eq_true, bne_iff_ne, beq_iff_eq, ne_eq, Bool.not_eq_false',
        Bool.not_eq_false, decide_not, not_not, Bool.decide_eq_true, Bool.false_eq_true,
        Bool.true_eq_false, not_false_eq_true, not_true_eq_false, and_true, true_and,
        and_false, false_and, or_true, true_or, or_false, false_or, not_true,
        not_false_iff, iff_self, true_iff, iff_true, false_iff, iff_false, ite_self,
        decide_eq_decide, decide_False, decide_True, Bool.not_true, Bool.not_false]
    all_goals omega
  · set_option maxRecDepth 8000 in
    simp only [
        ↓reduceIte, hx, h3, ↓fast_pow.pow_L_2TAG_PACKET_1_0_2_1_sem,
        ↓fast_pow.pow_B1_2_2_sem, ↓fast_pow.pow_B1_2_1_sem, ↓fast_pow.pow_start_1_sem,
        ↓fast_pow.pow_entry_1_sem, ↓Machine.get_setx, ↓Machine.get_setg,
        ↓Machine.get_setstk, ↓Machine.get_enter, ↓Machine.get_setFlags,
        ↓Machine.trace_set, ↓Machine.get_ite, ↓Machine.trace_ite, ↓Machine.obs_eq_get,
        ↓Machine.flags_get, ↓Machine.flags_trace, ↓sem_get_1, ↓sem_get_2, ↓sem_get_3,
        ↓sem_get_4, ↓sem_trace_1, ↓sem_trace_2, ↓sem_trace_3, ↓sem_trace_4, ↓load_const,
        cc_iff, ea, and_imm, and_imm_left, ilog2_lit, or_eq_zero, or_mod32, or_lt_2p31,
        Nat.mod_mod, Nat.zero_or, Nat.or_zero, Nat.sub_zero, Nat.add_mod_right, lane_eq,
        Machine.io_eq_get, Nat.xor_self, Loc.x.injEq, Loc.g.injEq, Loc.m.injEq,
        Bool.toNat_eq_zero, Bool.toNat_eq_one, Nat.reducePow, Nat.reduceMul,
        Nat.reduceMod, Nat.reduceAdd, Nat.reduceSub, Nat.reduceDiv, Nat.reduceEqDiff,
        Nat.reduceLTLE, Nat.reduceLeDiff, Nat.reduceLT, Nat.reduceGT, Nat.reduceOr,
        Nat.reduceXor, reduceCtorEq, Bool.not_eq_true', Bool.not_eq_true,
        decide_eq_true_eq, decide_eq_false_iff_not, Bool.and_eq_true, Bool.or_eq_true,
        bne_iff_ne, beq_iff_eq, ne_eq, Bool.not_eq_false', Bool.not_eq_false, decide_not,
        not_not, Bool.decide_eq_true, Bool.false_eq_true, Bool.true_eq_false,
        not_false_eq_true, not_true_eq_false, and_true, true_and, and_false, false_and,
        or_true, true_or, or_false, false_or, not_true, not_false_iff, iff_self, true_iff,
        iff_true, false_iff, iff_false, ite_self, decide_eq_decide, decide_False,
        decide_True, Bool.not_true, Bool.not_false]
    all_goals omega
  · set_option maxRecDepth 8000 in
    simp only [
        ↓reduceIte, hx, h3, ↓fast_pow.pow_B1_2_1_sem, ↓fast_pow.pow_start_1_sem,
        ↓fast_pow.pow_entry_1_sem, ↓Machine.get_setx, ↓Machine.get_setg,
        ↓Machine.get_setstk, ↓Machine.get_enter, ↓Machine.get_setFlags,
        ↓Machine.trace_set, ↓Machine.get_ite, ↓Machine.trace_ite, ↓Machine.obs_eq_get,
        ↓Machine.flags_get, ↓Machine.flags_trace, ↓sem_get_1, ↓sem_get_2, ↓sem_get_3,
        ↓sem_get_4, ↓sem_trace_1, ↓sem_trace_2, ↓sem_trace_3, ↓sem_trace_4, ↓load_const,
        cc_iff, ea, and_imm, and_imm_left, ilog2_lit, or_eq_zero, or_mod32, or_lt_2p31,
        Nat.mod_mod, Nat.zero_or, Nat.or_zero, Nat.sub_zero, Nat.add_mod_right, lane_eq,
        Machine.io_eq_get, Nat.xor_self, Loc.x.injEq, Loc.g.injEq, Loc.m.injEq,
        Bool.toNat_eq_zero, Bool.toNat_eq_one, Nat.reducePow, Nat.reduceMul,
        Nat.reduceMod, Nat.reduceAdd, Nat.reduceSub, Nat.reduceDiv, Nat.reduceEqDiff,
        Nat.reduceLTLE, Nat.reduceLeDiff, Nat.reduceLT, Nat.reduceGT, Nat.reduceOr,
        Nat.reduceXor, reduceCtorEq, Bool.not_eq_true', Bool.not_eq_true,
        decide_eq_true_eq, decide_eq_false_iff_not, Bool.and_eq_true, Bool.or_eq_true,
        bne_iff_ne, beq_iff_eq, ne_eq, Bool.not_eq_false', Bool.not_eq_false, decide_not,
        not_not, Bool.decide_eq_true, Bool.false_eq_true, Bool.true_eq_false,
        not_false_eq_true, not_true_eq_false, and_true, true_and, and_false, false_and,
        or_true, true_or, or_false, false_or, not_true, not_false_iff, iff_self, true_iff,
        iff_true, false_iff, iff_false, ite_self, decide_eq_decide, decide_False,
        decide_True, Bool.not_true, Bool.not_false]
    all_goals omega

theorem fast_pow_one_special_run (cpu : Cpu) (s : Machine) (hx : s.arg0 = 0x3FF0000000000000)
    (hy : f64Exp s.arg1 = 2047) :
    (fast_pow cpu s).result = 0x7FF8000000000000 := by
  simp only [f64Exp, Machine.io_eq_get, Nat.reducePow] at hx hy
  have h3 : s.get (.x xmm0) / 281474976710656 % 65536 = 16368 := by omega
  rw [
      fast_pow, fast_pow.pow_entry_eq, fast_pow.pow_start_eq, fast_pow.pow_B1_2_eq, if_neg,
      fast_pow.pow_L_2TAG_PACKET_1_0_2_eq, if_pos, fast_pow.pow_L_2TAG_PACKET_2_0_2_eq,
      if_neg, if_pos, fast_pow.pow_L_2TAG_PACKET_45_0_2_eq, if_neg, fast_pow.pow_B1_5_eq]
  · set_option maxRecDepth 8000 in
    simp only [
        ↓reduceIte, hx, h3, f64Add_negOne_one, ↓fast_pow.pow_B1_5_1_sem,
        ↓fast_pow.pow_L_2TAG_PACKET_45_0_2_2_sem,
        ↓fast_pow.pow_L_2TAG_PACKET_45_0_2_1_sem, ↓fast_pow.pow_L_2TAG_PACKET_2_0_2_2_sem,
        ↓fast_pow.pow_L_2TAG_PACKET_2_0_2_1_sem, ↓fast_pow.pow_L_2TAG_PACKET_1_0_2_1_sem,
        ↓fast_pow.pow_B1_2_2_sem, ↓fast_pow.pow_B1_2_1_sem, ↓fast_pow.pow_start_1_sem,
        ↓fast_pow.pow_entry_1_sem, ↓Machine.get_setx, ↓Machine.get_setg,
        ↓Machine.get_setstk, ↓Machine.get_enter, ↓Machine.get_setFlags,
        ↓Machine.trace_set, ↓Machine.get_ite, ↓Machine.trace_ite, ↓Machine.obs_eq_get,
        ↓Machine.flags_get, ↓Machine.flags_trace, ↓sem_get_1, ↓sem_get_2, ↓sem_get_3,
        ↓sem_get_4, ↓sem_trace_1, ↓sem_trace_2, ↓sem_trace_3, ↓sem_trace_4, ↓load_const,
        cc_iff, ea, and_imm, and_imm_left, ilog2_lit, or_eq_zero, or_mod32, or_lt_2p31,
        Nat.mod_mod, Nat.zero_or, Nat.or_zero, Nat.sub_zero, Nat.add_mod_right, lane_eq,
        Machine.io_eq_get, Nat.xor_self, Loc.x.injEq, Loc.g.injEq, Loc.m.injEq,
        Bool.toNat_eq_zero, Bool.toNat_eq_one, Nat.reducePow, Nat.reduceMul,
        Nat.reduceMod, Nat.reduceAdd, Nat.reduceSub, Nat.reduceDiv, Nat.reduceEqDiff,
        Nat.reduceLTLE, Nat.reduceLeDiff, Nat.reduceLT, Nat.reduceGT, Nat.reduceOr,
        Nat.reduceXor, reduceCtorEq, Bool.not_eq_true', Bool.not_eq_true,
        decide_eq_true_eq, decide_eq_false_iff_not, Bool.and_eq_true, Bool.or_eq_true,
        bne_iff_ne, beq_iff_eq, ne_eq, Bool.not_eq_false', Bool.not_eq_false, decide_not,
        not_not, Bool.decide_eq_true, Bool.false_eq_true, Bool.true_eq_false,
        not_false_eq_true, not_true_eq_false, and_true, true_and, and_false, false_and,
        or_true, true_or, or_false, false_or, not_true, not_false_iff, iff_self, true_iff,
        iff_true, false_iff, iff_false, ite_self, decide_eq_decide, decide_False,
        decide_True, Bool.not_true, Bool.not_false]
  · set_option maxRecDepth 8000 in
    simp only [
        ↓reduceIte, hx, h3, f64Add_negOne_one, ↓fast_pow.pow_L_2TAG_PACKET_45_0_2_1_sem,
        ↓fast_pow.pow_L_2TAG_PACKET_2_0_2_2_sem, ↓fast_pow.pow_L_2TAG_PACKET_2_0_2_1_sem,
        ↓fast_pow.pow_L_2TAG_PACKET_1_0_2_1_sem, ↓fast_pow.pow_B1_2_2_sem,
        ↓fast_pow.pow_B1_2_1_sem, ↓fast_pow.pow_start_1_sem, ↓fast_pow.pow_entry_1_sem,
        ↓Machine.get_setx, ↓Machine.get_setg, ↓Machine.get_setstk, ↓Machine.get_enter,
        ↓Machine.get_setFlags, ↓Machine.trace_set, ↓Machine.get_ite, ↓Machine.trace_ite,
        ↓Machine.obs_eq_get, ↓Machine.flags_get, ↓Machine.flags_trace, ↓sem_get_1,
        ↓sem_get_2, ↓sem_get_3, ↓sem_get_4, ↓sem_trace_1, ↓sem_trace_2, ↓sem_trace_3,
        ↓sem_trace_4, ↓load_const, cc_iff, ea, and_imm, and_imm_left, ilog2_lit,
        or_eq_zero, or_mod32, or_lt_2p31, Nat.mod_mod, Nat.zero_or, Nat.or_zero,
        Nat.sub_zero, Nat.add_mod_right, lane_eq, Machine.io_eq_get, Nat.xor_self,
        Loc.x.injEq, Loc.g.injEq, Loc.m.injEq, Bool.toNat_eq_zero, Bool.toNat_eq_one,
        Nat.reducePow, Nat.reduceMul, Nat.reduceMod, Nat.reduceAdd, Nat.reduceSub,
        Nat.reduceDiv, Nat.reduceEqDiff, Nat.reduceLTLE, Nat.reduceLeDiff, Nat.reduceLT,
        Nat.reduceGT, Nat.reduceOr, Nat.reduceXor, reduceCtorEq, Bool.not_eq_true',
        Bool.not_eq_true, decide_eq_true_eq, decide_eq_false_iff_not, Bool.and_eq_true,
        Bool.or_eq_true, bne_iff_ne, beq_iff_eq, ne_eq, Bool.not_eq_false',
        Bool.not_eq_false, decide_not, not_not, Bool.decide_eq_true, Bool.false_eq_true,
        Bool.true_eq_false, not_false_eq_true, not_true_eq_false, and_true, true_and,
        and_false, false_and, or_true, true_or, or_false, false_or, not_true,
        not_false_iff, iff_self, true_iff, iff_true, false_iff, iff_false, ite_self,
        decide_eq_decide, decide_False, decide_True, Bool.not_true, Bool.not_false]
    all_goals omega
  · set_option maxRecDepth 8000 in
    simp only [
        ↓reduceIte, hx, h3, f64Add_negOne_one, ↓fast_pow.pow_L_2TAG_PACKET_2_0_2_2_sem,
        ↓fast_pow.pow_L_2TAG_PACKET_2_0_2_1_sem, ↓fast_pow.pow_L_2TAG_PACKET_1_0_2_1_sem,
        ↓fast_pow.pow_B1_2_2_sem, ↓fast_pow.pow_B1_2_1_sem, ↓fast_pow.pow_start_1_sem,
        ↓fast_pow.pow_entry_1_sem, ↓Machine.get_setx, ↓Machine.get_setg,
        ↓Machine.get_setstk, ↓Machine.get_enter, ↓Machine.get_setFlags,
        ↓Machine.trace_set, ↓Machine.get_ite, ↓Machine.trace_ite, ↓Machine.obs_eq_get,
        ↓Machine.flags_get, ↓Machine.flags_trace, ↓sem_get_1, ↓sem_get_2, ↓sem_get_3,
        ↓sem_get_4, ↓sem_trace_1, ↓sem_trace_2, ↓sem_trace_3, ↓sem_trace_4, ↓load_const,
        cc_iff, ea, and_imm, and_imm_left, ilog2_lit, or_eq_zero, or_mod32, or_lt_2p31,
        Nat.mod_mod, Nat.zero_or, Nat.or_zero, Nat.sub_zero, Nat.add_mod_right, lane_eq,
        Machine.io_eq_get, Nat.xor_self, Loc.x.injEq, Loc.g.injEq, Loc.m.injEq,
        Bool.toNat_eq_zero, Bool.toNat_eq_one, Nat.reducePow, Nat.reduceMul,
        Nat.reduceMod, Nat.reduceAdd, Nat.reduceSub, Nat.reduceDiv, Nat.reduceEqDiff,
        Nat.reduceLTLE, Nat.reduceLeDiff, Nat.reduceLT, Nat.reduceGT, Nat.reduceOr,
        Nat.reduceXor, reduceCtorEq, Bool.not_eq_true', Bool.not_eq_true,
        decide_eq_true_eq, decide_eq_false_iff_not, Bool.and_eq_true, Bool.or_eq_true,
        bne_iff_ne, beq_iff_eq, ne_eq, Bool.not_eq_false', Bool.not_eq_false, decide_not,
        not_not, Bool.decide_eq_true, Bool.false_eq_true, Bool.true_eq_false,
        not_false_eq_true, not_true_eq_false, and_true, true_and, and_false, false_and,
        or_true, true_or, or_false, false_or, not_true, not_false_iff, iff_self, true_iff,
        iff_true, false_iff, iff_false, ite_self, decide_eq_decide, decide_False,
        decide_True, Bool.not_true, Bool.not_false]
    all_goals omega
  · set_option maxRecDepth 8000 in
    simp only [
        ↓reduceIte, hx, h3, f64Add_negOne_one, ↓fast_pow.pow_L_2TAG_PACKET_2_0_2_1_sem,
        ↓fast_pow.pow_L_2TAG_PACKET_1_0_2_1_sem, ↓fast_pow.pow_B1_2_2_sem,
        ↓fast_pow.pow_B1_2_1_sem, ↓fast_pow.pow_start_1_sem, ↓fast_pow.pow_entry_1_sem,
        ↓Machine.get_setx, ↓Machine.get_setg, ↓Machine.get_setstk, ↓Machine.get_enter,
        ↓Machine.get_setFlags, ↓Machine.trace_set, ↓Machine.get_ite, ↓Machine.trace_ite,
        ↓Machine.obs_eq_get, ↓Machine.flags_get, ↓Machine.flags_trace, ↓sem_get_1,
        ↓sem_get_2, ↓sem_get_3, ↓sem_get_4, ↓sem_trace_1, ↓sem_trace_2, ↓sem_trace_3,
        ↓sem_trace_4, ↓load_const, cc_iff, ea, and_imm, and_imm_left, ilog2_lit,
        or_eq_zero, or_mod32, or_lt_2p31, Nat.mod_mod, Nat.zero_or, Nat.or_zero,
        Nat.sub_zero, Nat.add_mod_right, lane_eq, Machine.io_eq_get, Nat.xor_self,
        Loc.x.injEq, Loc.g.injEq, Loc.m.injEq, Bool.toNat_eq_zero, Bool.toNat_eq_one,
        Nat.reducePow, Nat.reduceMul, Nat.reduceMod, Nat.reduceAdd, Nat.reduceSub,
        Nat.reduceDiv, Nat.reduceEqDiff, Nat.reduceLTLE, Nat.reduceLeDiff, Nat.reduceLT,
        Nat.reduceGT, Nat.reduceOr, Nat.reduceXor, reduceCtorEq, Bool.not_eq_true',
        Bool.not_eq_true, decide_eq_true_eq, decide_eq_false_iff_not, Bool.and_eq_true,
        Bool.or_eq_true, bne_iff_ne, beq_iff_eq, ne_eq, Bool.not_eq_false',
        Bool.not_eq_false, decide_not, not_not, Bool.decide_eq_true, Bool.false_eq_true,
        Bool.true_eq_false, not_false_eq_true, not_true_eq_false, and_true, true_and,
        and_false, false_and, or_true, true_or, or_false, false_or, not_true,
        not_false_iff, iff_self, true_iff, iff_true, false_iff, iff_false, ite_self,
        decide_eq_decide, decide_False, decide_True, Bool.not_true, Bool.not_false]
    all_goals omega
  · set_option maxRecDepth 8000 in
    simp only [
        ↓reduceIte, hx, h3, f64Add_negOne_one, ↓fast_pow.pow_L_2TAG_PACKET_1_0_2_1_sem,
        ↓fast_pow.pow_B1_2_2_sem, ↓fast_pow.pow_B1_2_1_sem, ↓fast_pow.pow_start_1_sem,
        ↓fast_pow.pow_entry_1_sem, ↓Machine.get_setx, ↓Machine.get_setg,
        ↓Machine.get_setstk, ↓Machine.get_enter, ↓Machine.get_setFlags,
        ↓Machine.trace_set, ↓Machine.get_ite, ↓Machine.trace_ite, ↓Machine.obs_eq_get,
        ↓Machine.flags_get, ↓Machine.flags_trace, ↓sem_get_1, ↓sem_get_2, ↓sem_get_3,
        ↓sem_get_4, ↓sem_trace_1, ↓sem_trace_2, ↓sem_trace_3, ↓sem_trace_4, ↓load_const,
        cc_iff, ea, and_imm, and_imm_left, ilog2_lit, or_eq_zero, or_mod32, or_lt_2p31,
        Nat.mod_mod, Nat.zero_or, Nat.or_zero, Nat.sub_zero, Nat.add_mod_right, lane_eq,
        Machine.io_eq_get, Nat.xor_self, Loc.x.injEq, Loc.g.injEq, Loc.m.injEq,
        Bool.toNat_eq_zero, Bool.toNat_eq_one, Nat.reducePow, Nat.reduceMul,
        Nat.reduceMod, Nat.reduceAdd, Nat.reduceSub, Nat.reduceDiv, Nat.reduceEqDiff,
        Nat.reduceLTLE, Nat.reduceLeDiff, Nat.reduceLT, Nat.reduceGT, Nat.reduceOr,
        Nat.reduceXor, reduceCtorEq, Bool.not_eq_true', Bool.not_eq_true,
        decide_eq_true_eq, decide_eq_false_iff_not, Bool.and_eq_true, Bool.or_eq_true,
        bne_iff_ne, beq_iff_eq, ne_eq, Bool.not_eq_false', Bool.not_eq_false, decide_not,
        not_not, Bool.decide_eq_true, Bool.false_eq_true, Bool.true_eq_false,
        not_false_eq_true, not_true_eq_false, and_true, true_and, and_false, false_and,
        or_true, true_or, or_false, false_or, not_true, not_false_iff, iff_self, true_iff,
        iff_true, false_iff, iff_false, ite_self, decide_eq_decide, decide_False,
        decide_True, Bool.not_true, Bool.not_false]
    all_goals omega
  · set_option maxRecDepth 8000 in
    simp only [
        ↓reduceIte, hx, h3, f64Add_negOne_one, ↓fast_pow.pow_B1_2_1_sem,
        ↓fast_pow.pow_start_1_sem, ↓fast_pow.pow_entry_1_sem, ↓Machine.get_setx,
        ↓Machine.get_setg, ↓Machine.get_setstk, ↓Machine.get_enter, ↓Machine.get_setFlags,
        ↓Machine.trace_set, ↓Machine.get_ite, ↓Machine.trace_ite, ↓Machine.obs_eq_get,
        ↓Machine.flags_get, ↓Machine.flags_trace, ↓sem_get_1, ↓sem_get_2, ↓sem_get_3,
        ↓sem_get_4, ↓sem_trace_1, ↓sem_trace_2, ↓sem_trace_3, ↓sem_trace_4, ↓load_const,
        cc_iff, ea, and_imm, and_imm_left, ilog2_lit, or_eq_zero, or_mod32, or_lt_2p31,
        Nat.mod_mod, Nat.zero_or, Nat.or_zero, Nat.sub_zero, Nat.add_mod_right, lane_eq,
        Machine.io_eq_get, Nat.xor_self, Loc.x.injEq, Loc.g.injEq, Loc.m.injEq,
        Bool.toNat_eq_zero, Bool.toNat_eq_one, Nat.reducePow, Nat.reduceMul,
        Nat.reduceMod, Nat.reduceAdd, Nat.reduceSub, Nat.reduceDiv, Nat.reduceEqDiff,
        Nat.reduceLTLE, Nat.reduceLeDiff, Nat.reduceLT, Nat.reduceGT, Nat.reduceOr,
        Nat.reduceXor, reduceCtorEq, Bool.not_eq_true', Bool.not_eq_true,
        decide_eq_true_eq, decide_eq_false_iff_not, Bool.and_eq_true, Bool.or_eq_true,
        bne_iff_ne, beq_iff_eq, ne_eq, Bool.not_eq_false', Bool.not_eq_false, decide_not,
        not_not, Bool.decide_eq_true, Bool.false_eq_true, Bool.true_eq_false,
        not_false_eq_true, not_true_eq_false, and_true, true_and, and_false, false_and,
        or_true, true_or, or_false, false_or, not_true, not_false_iff, iff_self, true_iff,
        iff_true, false_iff, iff_false, ite_self, decide_eq_decide, decide_False,
        decide_True, Bool.not_true, Bool.not_false]
    all_goals omega

set_option maxRecDepth 100000 in
/-- C8, counterexample: `fast_pow(1.0, +0)` is `1.0`, which is not a NaN. -/
theorem fast_pow_one_counterexample :
    (fast_pow Cpu.sample (Machine.init 0x3FF0000000000000 0)).result = 0x3FF0000000000000 ∧
    f64IsNaN (fast_pow Cpu.sample (Machine.init 0x3FF0000000000000 0)).result = false := by
  decide!

/-- C8, amended: for `x = +1.0`, `fast_pow(1.0, y)` is the NaN `0x7FF8000000000000` when `y`
is `+Inf`, `-Inf` or a NaN (exponent field all ones), and it is `1.0` when `y` is `+0` or
`-0`. -/
theorem fast_pow_one (cpu : Cpu) (s : Machine) (hx : s.arg0 = 0x3FF0000000000000) :
    (f64Exp s.arg1 = 2047 →
      (fast_pow cpu s).result = 0x7FF8000000000000 ∧
      f64IsNaN (fast_pow cpu s).result = true) ∧
    (s.arg1 = 0 ∨ s.arg1 = 0x8000000000000000 →
      (fast_pow cpu s).result = 0x3FF0000000000000) := by
  refine ⟨fun hy => ?_, fun hy => fast_pow_one_zero_run cpu s hx hy⟩
  have h := fast_pow_one_special_run cpu s hx hy
  exact ⟨h, by rw [h]; decide⟩

theorem fast_pow_one_witness :
    (Machine.init 0x3FF0000000000000 0xFFF0000000000000).arg0 = 0x3FF0000000000000 ∧
    f64Exp (Machine.init 0x3FF0000000000000 0xFFF0000000000000).arg1 = 2047 ∧
    (fast_pow Cpu.sample (Machine.init 0x3FF0000000000000 0xFFF0000000000000)).result =
      0x7FF8000000000000 :=
  ⟨by decide, by decide,
    ((fast_pow_one Cpu.sample (Machine.init 0x3FF0000000000000 0xFFF0000000000000)
      (by decide)).1 (by decide)).1⟩

end MacroAssembler

namespace MacroAssembler
open XReg GReg Machine

/-! ### `fast_log` at zero -/

theorem fast_log_neg_zero_run (cpu : Cpu) (s : Machine) (h : s.arg0 = 0x8000000000000000) :
    (fast_log cpu s).result = 0xFFF0000000000000 ∧
    (fast_log cpu s).trace = [Label.B1_5, Label.B1_3, Label.L_2TAG_PACKET_8_0_2,
      Label.L_2TAG_PACKET_7_0_2, Label.L_2TAG_PACKET_2_0_2, Label.L_2TAG_PACKET_0_0_2,
      Label.start, Label.entry] ++ s.trace := by
  simp only [Machine.io_eq_get, Nat.reducePow] at h
  have h3 : s.get (.x xmm0) / 281474976710656 % 65536 = 32768 := by omega
  rw [
      fast_log, fast_log.log_entry_eq, fast_log.log_start_eq, if_pos,
      fast_log.log_L_2TAG_PACKET_0_0_2_eq, if_pos, fast_log.log_L_2TAG_PACKET_2_0_2_eq,
      if_neg, if_pos, fast_log.log_L_2TAG_PACKET_7_0_2_eq,
      fast_log.log_L_2TAG_PACKET_8_0_2_eq, fast_log.log_B1_3_eq, fast_log.log_B1_5_eq]
  · set_option maxRecDepth 8000 in
    simp only [
        ↓reduceIte, f64Div_negOne_zero, h, h3, ↓fast_log.log_B1_5_1_sem,
        ↓fast_log.log_B1_3_1_sem, ↓fast_log.log_L_2TAG_PACKET_8_0_2_1_sem,
        ↓fast_log.log_L_2TAG_PACKET_7_0_2_1_sem, ↓fast_log.log_L_2TAG_PACKET_2_0_2_2_sem,
        ↓fast_log.log_L_2TAG_PACKET_2_0_2_1_sem, ↓fast_log.log_L_2TAG_PACKET_0_0_2_1_sem,
        ↓fast_log.log_start_1_sem, ↓fast_log.log_entry_1_sem, ↓Machine.get_setx,
        ↓Machine.get_setg, ↓Machine.get_setstk, ↓Machine.get_enter, ↓Machine.get_setFlags,
        ↓Machine.trace_set, ↓Machine.get_ite, ↓Machine.trace_ite, ↓Machine.obs_eq_get,
        ↓Machine.flags_get, ↓Machine.flags_trace, ↓sem_get_1, ↓sem_get_2, ↓sem_get_3,
        ↓sem_get_4, ↓sem_trace_1, ↓sem_trace_2, ↓sem_trace_3, ↓sem_trace_4, ↓load_const,
        cc_iff, ea, and_imm, and_imm_left, ilog2_lit, or_eq_zero, or_mod32, or_lt_2p31,
        Nat.mod_mod, Nat.zero_or, Nat.or_zero, Nat.sub_zero, Nat.add_mod_right, lane_eq,
        Machine.io_eq_get, Nat.xor_self, Loc.x.injEq, Loc.g.injEq, Loc.m.injEq,
        Bool.toNat_eq_zero, Bool.toNat_eq_one, Nat.reducePow, Nat.reduceMul,
        Nat.reduceMod, Nat.reduceAdd, Nat.reduceSub, Nat.reduceDiv, Nat.reduceEqDiff,
        Nat.reduceLTLE, Nat.reduceLeDiff, Nat.reduceLT, Nat.reduceGT, Nat.reduceOr,
        Nat.reduceXor, reduceCtorEq, Bool.not_eq_true', Bool.not_eq_true,
        decide_eq_true_eq, decide_eq_false_iff_not, Bool.and_eq_true, Bool.or_eq_true,
        bne_iff_ne, beq_iff_eq, ne_eq, Bool.not_eq_false', Bool.not_eq_false, decide_not,
        not_not, Bool.decide_eq_true, Bool.false_eq_true, Bool.true_eq_false,
        not_false_eq_true, not_true_eq_false, and_true, true_and, and_false, false_and,
        or_true, true_or, or_false, false_or, not_true, not_false_iff, iff_self, true_iff,
        iff_true, false_iff, iff_false, ite_self, decide_eq_decide, decide_False,
        decide_True, Bool.not_true, Bool.not_false]
    simp
  · set_option maxRecDepth 8000 in
    simp only [
        ↓reduceIte, h, h3, ↓fast_log.log_L_2TAG_PACKET_2_0_2_2_sem,
        ↓fast_log.log_L_2TAG_PACKET_2_0_2_1_sem, ↓fast_log.log_L_2TAG_PACKET_0_0_2_1_sem,
        ↓fast_log.log_start_1_sem, ↓fast_log.log_entry_1_sem, ↓Machine.get_setx,
        ↓Machine.get_setg, ↓Machine.get_setstk, ↓Machine.get_enter, ↓Machine.get_setFlags,
        ↓Machine.trace_set, ↓Machine.get_ite, ↓Machine.trace_ite, ↓Machine.obs_eq_get,
        ↓Machine.flags_get, ↓Machine.flags_trace, ↓sem_get_1, ↓sem_get_2, ↓sem_get_3,
        ↓sem_get_4, ↓sem_trace_1, ↓sem_trace_2, ↓sem_trace_3, ↓sem_trace_4, ↓load_const,
        cc_iff, ea, and_imm, and_imm_left, ilog2_lit, or_eq_zero, or_mod32, or_lt_2p31,
        Nat.mod_mod, Nat.zero_or, Nat.or_zero, Nat.sub_zero, Nat.add_mod_right, lane_eq,
        Machine.io_eq_get, Nat.xor_self, Loc.x.injEq, Loc.g.injEq, Loc.m.injEq,
        Bool.toNat_eq_zero, Bool.toNat_eq_one, Nat.reducePow, Nat.reduceMul,
        Nat.reduceMod, Nat.reduceAdd, Nat.reduceSub, Nat.reduceDiv, Nat.reduceEqDiff,
        Nat.reduceLTLE, Nat.reduceLeDiff, Nat.reduceLT, Nat.reduceGT, Nat.reduceOr,
        Nat.reduceXor, reduceCtorEq, Bool.not_eq_true', Bool.not_eq_true,
        decide_eq_true_eq, decide_eq_false_iff_not, Bool.and_eq_true, Bool.or_eq_true,
        bne_iff_ne, beq_iff_eq, ne_eq, Bool.not_eq_false', Bool.not_eq_false, decide_not,
        not_not, Bool.decide_eq_true, Bool.false_eq_true, Bool.true_eq_false,
        not_false_eq_true, not_true_eq_false, and_true, true_and, and_false, false_and,
        or_true, true_or, or_false, false_or, not_true, not_false_iff, iff_self, true_iff,
        iff_true, false_iff, iff_false, ite_self, decide_eq_decide, decide_False,
        decide_True, Bool.not_true, Bool.not_false]
  · set_option maxRecDepth 8000 in
    simp only [
        ↓reduceIte, h, h3, ↓fast_log.log_L_2TAG_PACKET_2_0_2_1_sem,
        ↓fast_log.log_L_2TAG_PACKET_0_0_2_1_sem, ↓fast_log.log_start_1_sem,
        ↓fast_log.log_entry_1_sem, ↓Machine.get_setx, ↓Machine.get_setg,
        ↓Machine.get_setstk, ↓Machine.get_enter, ↓Machine.get_setFlags,
        ↓Machine.trace_set, ↓Machine.get_ite, ↓Machine.trace_ite, ↓Machine.obs_eq_get,
        ↓Machine.flags_get, ↓Machine.flags_trace, ↓sem_get_1, ↓sem_get_2, ↓sem_get_3,
        ↓sem_get_4, ↓sem_trace_1, ↓sem_trace_2, ↓sem_trace_3, ↓sem_trace_4, ↓load_const,
        cc_iff, ea, and_imm, and_imm_left, ilog2_lit, or_eq_zero, or_mod32, or_lt_2p31,
        Nat.mod_mod, Nat.zero_or, Nat.or_zero, Nat.sub_zero, Nat.add_mod_right, lane_eq,
        Machine.io_eq_get, Nat.xor_self, Loc.x.injEq, Loc.g.injEq, Loc.m.injEq,
        Bool.toNat_eq_zero, Bool.toNat_eq_one, Nat.reducePow, Nat.reduceMul,
        Nat.reduceMod, Nat.reduceAdd, Nat.reduceSub, Nat.reduceDiv, Nat.reduceEqDiff,
        Nat.reduceLTLE, Nat.reduceLeDiff, Nat.reduceLT, Nat.reduceGT, Nat.reduceOr,
        Nat.reduceXor, reduceCtorEq, Bool.not_eq_true', Bool.not_eq_true,
        decide_eq_true_eq, decide_eq_false_iff_not, Bool.and_eq_true, Bool.or_eq_true,
        bne_iff_ne, beq_iff_eq, ne_eq, Bool.not_eq_false', Bool.not_eq_false, decide_not,
        not_not, Bool.decide_eq_true, Bool.false_eq_true, Bool.true_eq_false,
        not_false_eq_true, not_true_eq_false, and_true, true_and, and_false, false_and,
        or_true, true_or, or_false, false_or, not_true, not_false_iff, iff_self, true_iff,
        iff_true, false_iff, iff_false, ite_self, decide_eq_decide, decide_False,
        decide_True, Bool.not_true, Bool.not_false]
  · set_option maxRecDepth 8000 in
    simp only [
        ↓reduceIte, h, h3, ↓fast_log.log_L_2TAG_PACKET_0_0_2_1_sem,
        ↓fast_log.log_start_1_sem, ↓fast_log.log_entry_1_sem, ↓Machine.get_setx,
        ↓Machine.get_setg, ↓Machine.get_setstk, ↓Machine.get_enter, ↓Machine.get_setFlags,
        ↓Machine.trace_set, ↓Machine.get_ite, ↓Machine.trace_ite, ↓Machine.obs_eq_get,
        ↓Machine.flags_get, ↓Machine.flags_trace, ↓sem_get_1, ↓sem_get_2, ↓sem_get_3,
        ↓sem_get_4, ↓sem_trace_1, ↓sem_trace_2, ↓sem_trace_3, ↓sem_trace_4, ↓load_const,
        cc_iff, ea, and_imm, and_imm_left, ilog2_lit, or_eq_zero, or_mod32, or_lt_2p31,
        Nat.mod_mod, Nat.zero_or, Nat.or_zero, Nat.sub_zero, Nat.add_mod_right, lane_eq,
        Machine.io_eq_get, Nat.xor_self, Loc.x.injEq, Loc.g.injEq, Loc.m.injEq,
        Bool.toNat_eq_zero, Bool.toNat_eq_one, Nat.reducePow, Nat.reduceMul,
        Nat.reduceMod, Nat.reduceAdd, Nat.reduceSub, Nat.reduceDiv, Nat.reduceEqDiff,
        Nat.reduceLTLE, Nat.reduceLeDiff, Nat.reduceLT, Nat.reduceGT, Nat.reduceOr,
        Nat.reduceXor, reduceCtorEq, Bool.not_eq_true', Bool.not_eq_true,
        decide_eq_true_eq, decide_eq_false_iff_not, Bool.and_eq_true, Bool.or_eq_true,
        bne_iff_ne, beq_iff_eq, ne_eq, Bool.not_eq_false', Bool.not_eq_false, decide_not,
        not_not, Bool.decide_eq_true, Bool.false_eq_true, Bool.true_eq_false,
        not_false_eq_true, not_true_eq_false, and_true, true_and, and_false, false_and,
        or_true, true_or, or_false, false_or, not_true, not_false_iff, iff_self, true_iff,
        iff_true, false_iff, iff_false, ite_self, decide_eq_decide, decide_False,
        decide_True, Bool.not_true, Bool.not_false]
  · set_option maxRecDepth 8000 in
    simp only [
        ↓reduceIte, h, h3, ↓fast_log.log_start_1_sem, ↓fast_log.log_entry_1_sem,
        ↓Machine.get_setx, ↓Machine.get_setg, ↓Machine.get_setstk, ↓Machine.get_enter,
        ↓Machine.get_setFlags, ↓Machine.trace_set, ↓Machine.get_ite, ↓Machine.trace_ite,
        ↓Machine.obs_eq_get, ↓Machine.flags_get, ↓Machine.flags_trace, ↓sem_get_1,
        ↓sem_get_2, ↓sem_get_3, ↓sem_get_4, ↓sem_trace_1, ↓sem_trace_2, ↓sem_trace_3,
        ↓sem_trace_4, ↓load_const, cc_iff, ea, and_imm, and_imm_left, ilog2_lit,
        or_eq_zero, or_mod32, or_lt_2p31, Nat.mod_mod, Nat.zero_or, Nat.or_zero,
        Nat.sub_zero, Nat.add_mod_right, lane_eq, Machine.io_eq_get, Nat.xor_self,
        Loc.x.injEq, Loc.g.injEq, Loc.m.injEq, Bool.toNat_eq_zero, Bool.toNat_eq_one,
        Nat.reducePow, Nat.reduceMul, Nat.reduceMod, Nat.reduceAdd, Nat.reduceSub,
        Nat.reduceDiv, Nat.reduceEqDiff, Nat.reduceLTLE, Nat.reduceLeDiff, Nat.reduceLT,
        Nat.reduceGT, Nat.reduceOr, Nat.reduceXor, reduceCtorEq, Bool.not_eq_true',
        Bool.not_eq_true, decide_eq_true_eq, decide_eq_false_iff_not, Bool.and_eq_true,
        Bool.or_eq_true, bne_iff_ne, beq_iff_eq, ne_eq, Bool.not_eq_false',
        Bool.not_eq_false, decide_not, not_not, Bool.decide_eq_true, Bool.false_eq_true,
        Bool.true_eq_false, not_false_eq_true, not_true_eq_false, and_true, true_and,
        and_false, false_and, or_true, true_or, or_false, false_or, not_true,
        not_false_iff, iff_self, true_iff, iff_true, false_iff, iff_false, ite_self,
        decide_eq_decide, decide_False, decide_True, Bool.not_true, Bool.not_false]

theorem fast_log_pos_zero_run (cpu : Cpu) (s : Machine) (h : s.arg0 = 0) :
    (fast_log cpu s).result = 0xFFF0000000000000 ∧
    (fast_log cpu s).trace = [Label.B1_5, Label.B1_3, Label.L_2TAG_PACKET_8_0_2,
      Label.L_2TAG_PACKET_7_0_2, Label.L_2TAG_PACKET_3_0_2, Label.L_2TAG_PACKET_0_0_2,
      Label.start, Label.entry] ++ s.trace := by
  simp only [Machine.io_eq_get, Nat.reducePow] at h
  have h3 : s.get (.x xmm0) / 281474976710656 % 65536 = 0 := by omega
  rw [
      fast_log, fast_log.log_entry_eq, fast_log.log_start_eq, if_pos,
      fast_log.log_L_2TAG_PACKET_0_0_2_eq, if_neg, if_pos,
      fast_log.log_L_2TAG_PACKET_3_0_2_eq, if_pos, fast_log.log_L_2TAG_PACKET_7_0_2_eq,
      fast_log.log_L_2TAG_PACKET_8_0_2_eq, fast_log.log_B1_3_eq, fast_log.log_B1_5_eq]
  · set_option maxRecDepth 8000 in
    simp only [
        ↓reduceIte, f64Div_negOne_zero, h, h3, f64Add_zero_zero, ↓fast_log.log_B1_5_1_sem,
        ↓fast_log.log_B1_3_1_sem, ↓fast_log.log_L_2TAG_PACKET_8_0_2_1_sem,
        ↓fast_log.log_L_2TAG_PACKET_7_0_2_1_sem, ↓fast_log.log_L_2TAG_PACKET_3_0_2_1_sem,
        ↓fast_log.log_L_2TAG_PACKET_0_0_2_2_sem, ↓fast_log.log_L_2TAG_PACKET_0_0_2_1_sem,
        ↓fast_log.log_start_1_sem, ↓fast_log.log_entry_1_sem, ↓Machine.get_setx,
        ↓Machine.get_setg, ↓Machine.get_setstk, ↓Machine.get_enter, ↓Machine.get_setFlags,
        ↓Machine.trace_set, ↓Machine.get_ite, ↓Machine.trace_ite, ↓Machine.obs_eq_get,
        ↓Machine.flags_get, ↓Machine.flags_trace, ↓sem_get_1, ↓sem_get_2, ↓sem_get_3,
        ↓sem_get_4, ↓sem_trace_1, ↓sem_trace_2, ↓sem_trace_3, ↓sem_trace_4, ↓load_const,
        cc_iff, ea, and_imm, and_imm_left, ilog2_lit, or_eq_zero, or_mod32, or_lt_2p31,
        Nat.mod_mod, Nat.zero_or, Nat.or_zero, Nat.sub_zero, Nat.add_mod_right, lane_eq,
        Machine.io_eq_get, Nat.xor_self, Loc.x.injEq, Loc.g.injEq, Loc.m.injEq,
        Bool.toNat_eq_zero, Bool.toNat_eq_one, Nat.reducePow, Nat.reduceMul,
        Nat.reduceMod, Nat.reduceAdd, Nat.reduceSub, Nat.reduceDiv, Nat.reduceEqDiff,
        Nat.reduceLTLE, Nat.reduceLeDiff, Nat.reduceLT, Nat.reduceGT, Nat.reduceOr,
        Nat.reduceXor, reduceCtorEq, Bool.not_eq_true', Bool.not_eq_true,
        decide_eq_true_eq, decide_eq_false_iff_not, Bool.and_eq_true, Bool.or_eq_true,
        bne_iff_ne, beq_iff_eq, ne_eq, Bool.not_eq_false', Bool.not_eq_false, decide_not,
        not_not, Bool.decide_eq_true, Bool.false_eq_true, Bool.true_eq_false,
        not_false_eq_true, not_true_eq_false, and_true, true_and, and_false, false_and,
        or_true, true_or, or_false, false_or, not_true, not_false_iff, iff_self, true_iff,
        iff_true, false_iff, iff_false, ite_self, decide_eq_decide, decide_False,
        decide_True, Bool.not_true, Bool.not_false]
    simp
  · set_option maxRecDepth 8000 in
    simp only [
        ↓reduceIte, h, h3, f64Add_zero_zero, ↓fast_log.log_L_2TAG_PACKET_3_0_2_1_sem,
        ↓fast_log.log_L_2TAG_PACKET_0_0_2_2_sem, ↓fast_log.log_L_2TAG_PACKET_0_0_2_1_sem,
        ↓fast_log.log_start_1_sem, ↓fast_log.log_entry_1_sem, ↓Machine.get_setx,
        ↓Machine.get_setg, ↓Machine.get_setstk, ↓Machine.get_enter, ↓Machine.get_setFlags,
        ↓Machine.trace_set, ↓Machine.get_ite, ↓Machine.trace_ite, ↓Machine.obs_eq_get,
        ↓Machine.flags_get, ↓Machine.flags_trace, ↓sem_get_1, ↓sem_get_2, ↓sem_get_3,
        ↓sem_get_4, ↓sem_trace_1, ↓sem_trace_2, ↓sem_trace_3, ↓sem_trace_4, ↓load_const,
        cc_iff, ea, and_imm, and_imm_left, ilog2_lit, or_eq_zero, or_mod32, or_lt_2p31,
        Nat.mod_mod, Nat.zero_or, Nat.or_zero, Nat.sub_zero, Nat.add_mod_right, lane_eq,
        Machine.io_eq_get, Nat.xor_self, Loc.x.injEq, Loc.g.injEq, Loc.m.injEq,
        Bool.toNat_eq_zero, Bool.toNat_eq_one, Nat.reducePow, Nat.reduceMul,
        Nat.reduceMod, Nat.reduceAdd, Nat.reduceSub, Nat.reduceDiv, Nat.reduceEqDiff,
        Nat.reduceLTLE, Nat.reduceLeDiff, Nat.reduceLT, Nat.reduceGT, Nat.reduceOr,
        Nat.reduceXor, reduceCtorEq, Bool.not_eq_true', Bool.not_eq_true,
        decide_eq_true_eq, decide_eq_false_iff_not, Bool.and_eq_true, Bool.or_eq_true,
        bne_iff_ne, beq_iff_eq, ne_eq, Bool.not_eq_false', Bool.not_eq_false, decide_not,
        not_not, Bool.decide_eq_true, Bool.false_eq_true, Bool.true_eq_false,
        not_false_eq_true, not_true_eq_false, and_true, true_and, and_false, false_and,
        or_true, true_or, or_false, false_or, not_true, not_false_iff, iff_self, true_iff,
        iff_true, false_iff, iff_false, ite_self, decide_eq_decide, decide_False,
        decide_True, Bool.not_true, Bool.not_false]
  · set_option maxRecDepth 8000 in
    simp only [
        ↓reduceIte, h, h3, f64Add_zero_zero, ↓fast_log.log_L_2TAG_PACKET_0_0_2_2_sem,
        ↓fast_log.log_L_2TAG_PACKET_0_0_2_1_sem, ↓fast_log.log_start_1_sem,
        ↓fast_log.log_entry_1_sem, ↓Machine.get_setx, ↓Machine.get_setg,
        ↓Machine.get_setstk, ↓Machine.get_enter, ↓Machine.get_setFlags,
        ↓Machine.trace_set, ↓Machine.get_ite, ↓Machine.trace_ite, ↓Machine.obs_eq_get,
        ↓Machine.flags_get, ↓Machine.flags_trace, ↓sem_get_1, ↓sem_get_2, ↓sem_get_3,
        ↓sem_get_4, ↓sem_trace_1, ↓sem_trace_2, ↓sem_trace_3, ↓sem_trace_4, ↓load_const,
        cc_iff, ea, and_imm, and_imm_left, ilog2_lit, or_eq_zero, or_mod32, or_lt_2p31,
        Nat.mod_mod, Nat.zero_or, Nat.or_zero, Nat.sub_zero, Nat.add_mod_right, lane_eq,
        Machine.io_eq_get, Nat.xor_self, Loc.x.injEq, Loc.g.injEq, Loc.m.injEq,
        Bool.toNat_eq_zero, Bool.toNat_eq_one, Nat.reducePow, Nat.reduceMul,
        Nat.reduceMod, Nat.reduceAdd, Nat.reduceSub, Nat.reduceDiv, Nat.reduceEqDiff,
        Nat.reduceLTLE, Nat.reduceLeDiff, Nat.reduceLT, Nat.reduceGT, Nat.reduceOr,
        Nat.reduceXor, reduceCtorEq, Bool.not_eq_true', Bool.not_eq_true,
        decide_eq_true_eq, decide_eq_false_iff_not, Bool.and_eq_true, Bool.or_eq_true,
        bne_iff_ne, beq_iff_eq, ne_eq, Bool.not_eq_false', Bool.not_eq_false, decide_not,
        not_not, Bool.decide_eq_true, Bool.false_eq_true, Bool.true_eq_false,
        not_false_eq_true, not_true_eq_false, and_true, true_and, and_false, false_and,
        or_true, true_or, or_false, false_or, not_true, not_false_iff, iff_self, true_iff,
        iff_true, false_iff, iff_false, ite_self, decide_eq_decide, decide_False,
        decide_True, Bool.not_true, Bool.not_false]
  · set_option maxRecDepth 8000 in
    simp only [
        ↓reduceIte, h, h3, f64Add_zero_zero, ↓fast_log.log_L_2TAG_PACKET_0_0_2_1_sem,
        ↓fast_log.log_start_1_sem, ↓fast_log.log_entry_1_sem, ↓Machine.get_setx,
        ↓Machine.get_setg, ↓Machine.get_setstk, ↓Machine.get_enter, ↓Machine.get_setFlags,
        ↓Machine.trace_set, ↓Machine.get_ite, ↓Machine.trace_ite, ↓Machine.obs_eq_get,
        ↓Machine.flags_get, ↓Machine.flags_trace, ↓sem_get_1, ↓sem_get_2, ↓sem_get_3,
        ↓sem_get_4, ↓sem_trace_1, ↓sem_trace_2, ↓sem_trace_3, ↓sem_trace_4, ↓load_const,
        cc_iff, ea, and_imm, and_imm_left, ilog2_lit, or_eq_zero, or_mod32, or_lt_2p31,
        Nat.mod_mod, Nat.zero_or, Nat.or_zero, Nat.sub_zero, Nat.add_mod_right, lane_eq,
        Machine.io_eq_get, Nat.xor_self, Loc.x.injEq, Loc.g.injEq, Loc.m.injEq,
        Bool.toNat_eq_zero, Bool.toNat_eq_one, Nat.reducePow, Nat.reduceMul,
        Nat.reduceMod, Nat.reduceAdd, Nat.reduceSub, Nat.reduceDiv, Nat.reduceEqDiff,
        Nat.reduceLTLE, Nat.reduceLeDiff, Nat.reduceLT, Nat.reduceGT, Nat.reduceOr,
        Nat.reduceXor, reduceCtorEq, Bool.not_eq_true', Bool.not_eq_true,
        decide_eq_true_eq, decide_eq_false_iff_not, Bool.and_eq_true, Bool.or_eq_true,
        bne_iff_ne, beq_iff_eq, ne_eq, Bool.not_eq_false', Bool.not_eq_false, decide_not,
        not_not, Bool.decide_eq_true, Bool.false_eq_true, Bool.true_eq_false,
        not_false_eq_true, not_true_eq_false, and_true, true_and, and_false, false_and,
        or_true, true_or, or_false, false_or, not_true, not_false_iff, iff_self, true_iff,
        iff_true, false_iff, iff_false, ite_self, decide_eq_decide, decide_False,
        decide_True, Bool.not_true, Bool.not_false]
  · set_option maxRecDepth 8000 in
    simp only [
        ↓reduceIte, h, h3, f64Add_zero_zero, ↓fast_log.log_start_1_sem,
        ↓fast_log.log_entry_1_sem, ↓Machine.get_setx, ↓Machine.get_setg,
        ↓Machine.get_setstk, ↓Machine.get_enter, ↓Machine.get_setFlags,
        ↓Machine.trace_set, ↓Machine.get_ite, ↓Machine.trace_ite, ↓Machine.obs_eq_get,
        ↓Machine.flags_get, ↓Machine.flags_trace, ↓sem_get_1, ↓sem_get_2, ↓sem_get_3,
        ↓sem_get_4, ↓sem_trace_1, ↓sem_trace_2, ↓sem_trace_3, ↓sem_trace_4, ↓load_const,
        cc_iff, ea, and_imm, and_imm_left, ilog2_lit, or_eq_zero, or_mod32, or_lt_2p31,
        Nat.mod_mod, Nat.zero_or, Nat.or_zero, Nat.sub_zero, Nat.add_mod_right, lane_eq,
        Machine.io_eq_get, Nat.xor_self, Loc.x.injEq, Loc.g.injEq, Loc.m.injEq,
        Bool.toNat_eq_zero, Bool.toNat_eq_one, Nat.reducePow, Nat.reduceMul,
        Nat.reduceMod, Nat.reduceAdd, Nat.reduceSub, Nat.reduceDiv, Nat.reduceEqDiff,
        Nat.reduceLTLE, Nat.reduceLeDiff, Nat.reduceLT, Nat.reduceGT, Nat.reduceOr,
        Nat.reduceXor, reduceCtorEq, Bool.not_eq_true', Bool.not_eq_true,
        decide_eq_true_eq, decide_eq_false_iff_not, Bool.and_eq_true, Bool.or_eq_true,
        bne_iff_ne, beq_iff_eq, ne_eq, Bool.not_eq_false', Bool.not_eq_false, decide_not,
        not_not, Bool.decide_eq_true, Bool.false_eq_true, Bool.true_eq_false,
        not_false_eq_true, not_true_eq_false, and_true, true_and, and_false, false_and,
        or_true, true_or, or_false, false_or, not_true, not_false_iff, iff_self, true_iff,
        iff_true, false_iff, iff_false, ite_self, decide_eq_decide, decide_False,
        decide_True, Bool.not_true, Bool.not_false]

/-- C9: `fast_log` returns `-Inf` (bits `0xFFF0000000000000`) for both `+0` and `-0`; the run
passes through the block `L_2TAG_PACKET_7_0_2`, which divides `-1.0` by `+0`, and the value
returned is that quotient. -/
theorem fast_log_zero (cpu : Cpu) (s : Machine)
    (h : s.arg0 = 0 ∨ s.arg0 = 0x8000000000000000) :
    (fast_log cpu s).result = 0xFFF0000000000000 ∧
    (fast_log cpu s).result = f64Div 0xBFF0000000000000 0 ∧
    Label.L_2TAG_PACKET_7_0_2 ∈ (fast_log cpu s).trace := by
  rcases h with h | h
  · obtain ⟨h1, h2⟩ := fast_log_pos_zero_run cpu s h
    refine ⟨h1, by rw [h1, f64Div_negOne_zero], ?_⟩
    rw [h2]; simp
  · obtain ⟨h1, h2⟩ := fast_log_neg_zero_run cpu s h
    refine ⟨h1, by rw [h1, f64Div_negOne_zero], ?_⟩
    rw [h2]; simp

theorem fast_log_zero_witness :
    ((Machine.init 0 0).arg0 = 0 ∨ (Machine.init 0 0).arg0 = 0x8000000000000000) ∧
    (fast_log Cpu.sample (Machine.init 0 0)).result = 0xFFF0000000000000 ∧
    (fast_log Cpu.sample (Machine.init 0 0)).result = f64Div 0xBFF0000000000000 0 ∧
    Label.L_2TAG_PACKET_7_0_2 ∈ (fast_log Cpu.sample (Machine.init 0 0)).trace :=
  ⟨Or.inl rfl, fast_log_zero Cpu.sample (Machine.init 0 0) (Or.inl rfl)⟩

end MacroAssembler

namespace MacroAssembler
open XReg GReg Machine

/-! ### `fast_log` of negative arguments -/

theorem fast_log_neg_finite_run (cpu : Cpu) (s : Machine)
    (h1 : 0x8000000000000000 < s.arg0) (h2 : s.arg0 < 0xFFF0000000000000) :
    (fast_log cpu s).result = 0xFFF8000000000000 := by
  simp only [Machine.io_eq_get, Nat.reducePow] at h1 h2
  rw [
      fast_log, fast_log.log_entry_eq, fast_log.log_start_eq, if_pos,
      fast_log.log_L_2TAG_PACKET_0_0_2_eq, if_pos, fast_log.log_L_2TAG_PACKET_2_0_2_eq,
      if_neg, if_neg, fast_log.log_L_2TAG_PACKET_6_0_2_eq,
      fast_log.log_L_2TAG_PACKET_8_0_2_eq, fast_log.log_B1_3_eq, fast_log.log_B1_5_eq]
  · set_option maxRecDepth 8000 in
    simp only [
        ↓reduceIte, f64Mul_zero_inf, ↓fast_log.log_B1_5_1_sem, ↓fast_log.log_B1_3_1_sem,
        ↓fast_log.log_L_2TAG_PACKET_8_0_2_1_sem, ↓fast_log.log_L_2TAG_PACKET_6_0_2_1_sem,
        ↓fast_log.log_L_2TAG_PACKET_2_0_2_3_sem, ↓fast_log.log_L_2TAG_PACKET_2_0_2_2_sem,
        ↓fast_log.log_L_2TAG_PACKET_2_0_2_1_sem, ↓fast_log.log_L_2TAG_PACKET_0_0_2_1_sem,
        ↓fast_log.log_start_1_sem, ↓fast_log.log_entry_1_sem, ↓Machine.get_setx,
        ↓Machine.get_setg, ↓Machine.get_setstk, ↓Machine.get_enter, ↓Machine.get_setFlags,
        ↓Machine.trace_set, ↓Machine.get_ite, ↓Machine.trace_ite, ↓Machine.obs_eq_get,
        ↓Machine.flags_get, ↓Machine.flags_trace, ↓sem_get_1, ↓sem_get_2, ↓sem_get_3,
        ↓sem_get_4, ↓sem_trace_1, ↓sem_trace_2, ↓sem_trace_3, ↓sem_trace_4, ↓load_const,
        cc_iff, ea, and_imm, and_imm_left, ilog2_lit, or_eq_zero, or_mod32, or_lt_2p31,
        Nat.mod_mod, Nat.zero_or, Nat.or_zero, Nat.sub_zero, Nat.add_mod_right, lane_eq,
        Machine.io_eq_get, Nat.xor_self, Loc.x.injEq, Loc.g.injEq, Loc.m.injEq,
        Bool.toNat_eq_zero, Bool.toNat_eq_one, Nat.reducePow, Nat.reduceMul,
        Nat.reduceMod, Nat.reduceAdd, Nat.reduceSub, Nat.reduceDiv, Nat.reduceEqDiff,
        Nat.reduceLTLE, Nat.reduceLeDiff, Nat.reduceLT, Nat.reduceGT, Nat.reduceOr,
        Nat.reduceXor, reduceCtorEq, Bool.not_eq_true', Bool.not_eq_true,
        decide_eq_true_eq, decide_eq_false_iff_not, Bool.and_eq_true, Bool.or_eq_true,
        bne_iff_ne, beq_iff_eq, ne_eq, Bool.not_eq_false', Bool.not_eq_false, decide_not,
        not_not, Bool.decide_eq_true, Bool.false_eq_true, Bool.true_eq_false,
        not_false_eq_true, not_true_eq_false, and_true, true_and, and_false, false_and,
        or_true, true_or, or_false, false_or, not_true, not_false_iff, iff_self, true_iff,
        iff_true, false_iff, iff_false, ite_self, decide_eq_decide, decide_False,
        decide_True, Bool.not_true, Bool.not_false]
  · set_option maxRecDepth 8000 in
    simp only [
        ↓reduceIte, or_mod32, or_eq_zero, Nat.mod_mod, Nat.sub_zero, Nat.add_mod_right,
        ↓fast_log.log_L_2TAG_PACKET_2_0_2_2_sem, ↓fast_log.log_L_2TAG_PACKET_2_0_2_1_sem,
        ↓fast_log.log_L_2TAG_PACKET_0_0_2_1_sem, ↓fast_log.log_start_1_sem,
        ↓fast_log.log_entry_1_sem, ↓Machine.get_setx, ↓Machine.get_setg,
        ↓Machine.get_setstk, ↓Machine.get_enter, ↓Machine.get_setFlags,
        ↓Machine.trace_set, ↓Machine.get_ite, ↓Machine.trace_ite, ↓Machine.obs_eq_get,
        ↓Machine.flags_get, ↓Machine.flags_trace, ↓sem_get_1, ↓sem_get_2, ↓sem_get_3,
        ↓sem_get_4, ↓sem_trace_1, ↓sem_trace_2, ↓sem_trace_3, ↓sem_trace_4, ↓load_const,
        cc_iff, ea, and_imm, and_imm_left, ilog2_lit, or_eq_zero, or_mod32, or_lt_2p31,
        Nat.mod_mod, Nat.zero_or, Nat.or_zero, Nat.sub_zero, Nat.add_mod_right, lane_eq,
        Machine.io_eq_get, Nat.xor_self, Loc.x.injEq, Loc.g.injEq, Loc.m.injEq,
        Bool.toNat_eq_zero, Bool.toNat_eq_one, Nat.reducePow, Nat.reduceMul,
        Nat.reduceMod, Nat.reduceAdd, Nat.reduceSub, Nat.reduceDiv, Nat.reduceEqDiff,
        Nat.reduceLTLE, Nat.reduceLeDiff, Nat.reduceLT, Nat.reduceGT, Nat.reduceOr,
        Nat.reduceXor, reduceCtorEq, Bool.not_eq_true', Bool.not_eq_true,
        decide_eq_true_eq, decide_eq_false_iff_not, Bool.and_eq_true, Bool.or_eq_true,
        bne_iff_ne, beq_iff_eq, ne_eq, Bool.not_eq_false', Bool.not_eq_false, decide_not,
        not_not, Bool.decide_eq_true, Bool.false_eq_true, Bool.true_eq_false,
        not_false_eq_true, not_true_eq_false, and_true, true_and, and_false, false_and,
        or_true, true_or, or_false, false_or, not_true, not_false_iff, iff_self, true_iff,
        iff_true, false_iff, iff_false, ite_self, decide_eq_decide, decide_False,
        decide_True, Bool.not_true, Bool.not_false]
    all_goals omega
  · set_option maxRecDepth 8000 in
    simp only [
        ↓reduceIte, ↓fast_log.log_L_2TAG_PACKET_2_0_2_1_sem,
        ↓fast_log.log_L_2TAG_PACKET_0_0_2_1_sem, ↓fast_log.log_start_1_sem,
        ↓fast_log.log_entry_1_sem, ↓Machine.get_setx, ↓Machine.get_setg,
        ↓Machine.get_setstk, ↓Machine.get_enter, ↓Machine.get_setFlags,
        ↓Machine.trace_set, ↓Machine.get_ite, ↓Machine.trace_ite, ↓Machine.obs_eq_get,
        ↓Machine.flags_get, ↓Machine.flags_trace, ↓sem_get_1, ↓sem_get_2, ↓sem_get_3,
        ↓sem_get_4, ↓sem_trace_1, ↓sem_trace_2, ↓sem_trace_3, ↓sem_trace_4, ↓load_const,
        cc_iff, ea, and_imm, and_imm_left, ilog2_lit, or_eq_zero, or_mod32, or_lt_2p31,
        Nat.mod_mod, Nat.zero_or, Nat.or_zero, Nat.sub_zero, Nat.add_mod_right, lane_eq,
        Machine.io_eq_get, Nat.xor_self, Loc.x.injEq, Loc.g.injEq, Loc.m.injEq,
        Bool.toNat_eq_zero, Bool.toNat_eq_one, Nat.reducePow, Nat.reduceMul,
        Nat.reduceMod, Nat.reduceAdd, Nat.reduceSub, Nat.reduceDiv, Nat.reduceEqDiff,
        Nat.reduceLTLE, Nat.reduceLeDiff, Nat.reduceLT, Nat.reduceGT, Nat.reduceOr,
        Nat.reduceXor, reduceCtorEq, Bool.not_eq_true', Bool.not_eq_true,
        decide_eq_true_eq, decide_eq_false_iff_not, Bool.and_eq_true, Bool.or_eq_true,
        bne_iff_ne, beq_iff_eq, ne_eq, Bool.not_eq_false', Bool.not_eq_false, decide_not,
        not_not, Bool.decide_eq_true, Bool.false_eq_true, Bool.true_eq_false,
        not_false_eq_true, not_true_eq_false, and_true, true_and, and_false, false_and,
        or_true, true_or, or_false, false_or, not_true, not_false_iff, iff_self, true_iff,
        iff_true, false_iff, iff_false, ite_self, decide_eq_decide, decide_False,
        decide_True, Bool.not_true, Bool.not_false]
    all_goals omega
  · set_option maxRecDepth 8000 in
    simp only [
        ↓reduceIte, ↓fast_log.log_L_2TAG_PACKET_0_0_2_1_sem, ↓fast_log.log_start_1_sem,
        ↓fast_log.log_entry_1_sem, ↓Machine.get_setx, ↓Machine.get_setg,
        ↓Machine.get_setstk, ↓Machine.get_enter, ↓Machine.get_setFlags,
        ↓Machine.trace_set, ↓Machine.get_ite, ↓Machine.trace_ite, ↓Machine.obs_eq_get,
        ↓Machine.flags_get, ↓Machine.flags_trace, ↓sem_get_1, ↓sem_get_2, ↓sem_get_3,
        ↓sem_get_4, ↓sem_trace_1, ↓sem_trace_2, ↓sem_trace_3, ↓sem_trace_4, ↓load_const,
        cc_iff, ea, and_imm, and_imm_left, ilog2_lit, or_eq_zero, or_mod32, or_lt_2p31,
        Nat.mod_mod, Nat.zero_or, Nat.or_zero, Nat.sub_zero, Nat.add_mod_right, lane_eq,
        Machine.io_eq_get, Nat.xor_self, Loc.x.injEq, Loc.g.injEq, Loc.m.injEq,
        Bool.toNat_eq_zero, Bool.toNat_eq_one, Nat.reducePow, Nat.reduceMul,
        Nat.reduceMod, Nat.reduceAdd, Nat.reduceSub, Nat.reduceDiv, Nat.reduceEqDiff,
        Nat.reduceLTLE, Nat.reduceLeDiff, Nat.reduceLT, Nat.reduceGT, Nat.reduceOr,
        Nat.reduceXor, reduceCtorEq, Bool.not_eq_true', Bool.not_eq_true,
        decide_eq_true_eq, decide_eq_false_iff_not, Bool.and_eq_true, Bool.or_eq_true,
        bne_iff_ne, beq_iff_eq, ne_eq, Bool.not_eq_false', Bool.not_eq_false, decide_not,
        not_not, Bool.decide_eq_true, Bool.false_eq_true, Bool.true_eq_false,
        not_false_eq_true, not_true_eq_false, and_true, true_and, and_false, false_and,
        or_true, true_or, or_false, false_or, not_true, not_false_iff, iff_self, true_iff,
        iff_true, false_iff, iff_false, ite_self, decide_eq_decide, decide_False,
        decide_True, Bool.not_true, Bool.not_false]
    all_goals omega
  · set_option maxRecDepth 8000 in
    simp only [
        ↓reduceIte, ↓fast_log.log_start_1_sem, ↓fast_log.log_entry_1_sem,
        ↓Machine.get_setx, ↓Machine.get_setg, ↓Machine.get_setstk, ↓Machine.get_enter,
        ↓Machine.get_setFlags, ↓Machine.trace_set, ↓Machine.get_ite, ↓Machine.trace_ite,
        ↓Machine.obs_eq_get, ↓Machine.flags_get, ↓Machine.flags_trace, ↓sem_get_1,
        ↓sem_get_2, ↓sem_get_3, ↓sem_get_4, ↓sem_trace_1, ↓sem_trace_2, ↓sem_trace_3,
        ↓sem_trace_4, ↓load_const, cc_iff, ea, and_imm, and_imm_left, ilog2_lit,
        or_eq_zero, or_mod32, or_lt_2p31, Nat.mod_mod, Nat.zero_or, Nat.or_zero,
        Nat.sub_zero, Nat.add_mod_right, lane_eq, Machine.io_eq_get, Nat.xor_self,
        Loc.x.injEq, Loc.g.injEq, Loc.m.injEq, Bool.toNat_eq_zero, Bool.toNat_eq_one,
        Nat.reducePow, Nat.reduceMul, Nat.reduceMod, Nat.reduceAdd, Nat.reduceSub,
        Nat.reduceDiv, Nat.reduceEqDiff, Nat.reduceLTLE, Nat.reduceLeDiff, Nat.reduceLT,
        Nat.reduceGT, Nat.reduceOr, Nat.reduceXor, reduceCtorEq, Bool.not_eq_true',
        Bool.not_eq_true, decide_eq_true_eq, decide_eq_false_iff_not, Bool.and_eq_true,
        Bool.or_eq_true, bne_iff_ne, beq_iff_eq, ne_eq, Bool.not_eq_false',
        Bool.not_eq_false, decide_not, not_not, Bool.decide_eq_true, Bool.false_eq_true,
        Bool.true_eq_false, not_false_eq_true, not_true_eq_false, and_true, true_and,
        and_false, false_and, or_true, true_or, or_false, false_or, not_true,
        not_false_iff, iff_self, true_iff, iff_true, false_iff, iff_false, ite_self,
        decide_eq_decide, decide_False, decide_True, Bool.not_true, Bool.not_false]
    all_goals omega

theorem fast_log_neg_inf_run (cpu : Cpu) (s : Machine) (h : s.arg0 = 0xFFF0000000000000) :
    (fast_log cpu s).result = 0xFFF8000000000000 := by
  simp only [Machine.io_eq_get, Nat.reducePow] at h
  have h3 : s.get (.x xmm0) / 281474976710656 % 65536 = 65520 := by omega
  rw [
      fast_log, fast_log.log_entry_eq, fast_log.log_start_eq, if_pos,
      fast_log.log_L_2TAG_PACKET_0_0_2_eq, if_pos, fast_log.log_L_2TAG_PACKET_2_0_2_eq,
      if_pos, fast_log.log_L_2TAG_PACKET_5_0_2_eq, if_neg, if_neg,
      fast_log.log_L_2TAG_PACKET_6_0_2_eq, fast_log.log_L_2TAG_PACKET_8_0_2_eq,
      fast_log.log_B1_3_eq, fast_log.log_B1_5_eq]
  · set_option maxRecDepth 8000 in
    simp only [
        ↓reduceIte, f64Mul_zero_inf, h, h3, ↓fast_log.log_B1_5_1_sem,
        ↓fast_log.log_B1_3_1_sem, ↓fast_log.log_L_2TAG_PACKET_8_0_2_1_sem,
        ↓fast_log.log_L_2TAG_PACKET_6_0_2_1_sem, ↓fast_log.log_L_2TAG_PACKET_5_0_2_3_sem,
        ↓fast_log.log_L_2TAG_PACKET_5_0_2_2_sem, ↓fast_log.log_L_2TAG_PACKET_5_0_2_1_sem,
        ↓fast_log.log_L_2TAG_PACKET_2_0_2_1_sem, ↓fast_log.log_L_2TAG_PACKET_0_0_2_1_sem,
        ↓fast_log.log_start_1_sem, ↓fast_log.log_entry_1_sem, ↓Machine.get_setx,
        ↓Machine.get_setg, ↓Machine.get_setstk, ↓Machine.get_enter, ↓Machine.get_setFlags,
        ↓Machine.trace_set, ↓Machine.get_ite, ↓Machine.trace_ite, ↓Machine.obs_eq_get,
        ↓Machine.flags_get, ↓Machine.flags_trace, ↓sem_get_1, ↓sem_get_2, ↓sem_get_3,
        ↓sem_get_4, ↓sem_trace_1, ↓sem_trace_2, ↓sem_trace_3, ↓sem_trace_4, ↓load_const,
        cc_iff, ea, and_imm, and_imm_left, ilog2_lit, or_eq_zero, or_mod32, or_lt_2p31,
        Nat.mod_mod, Nat.zero_or, Nat.or_zero, Nat.sub_zero, Nat.add_mod_right, lane_eq,
        Machine.io_eq_get, Nat.xor_self, Loc.x.injEq, Loc.g.injEq, Loc.m.injEq,
        Bool.toNat_eq_zero, Bool.toNat_eq_one, Nat.reducePow, Nat.reduceMul,
        Nat.reduceMod, Nat.reduceAdd, Nat.reduceSub, Nat.reduceDiv, Nat.reduceEqDiff,
        Nat.reduceLTLE, Nat.reduceLeDiff, Nat.reduceLT, Nat.reduceGT, Nat.reduceOr,
        Nat.reduceXor, reduceCtorEq, Bool.not_eq_true', Bool.not_eq_true,
        decide_eq_true_eq, decide_eq_false_iff_not, Bool.and_eq_true, Bool.or_eq_true,
        bne_iff_ne, beq_iff_eq, ne_eq, Bool.not_eq_false', Bool.not_eq_false, decide_not,
        not_not, Bool.decide_eq_true, Bool.false_eq_true, Bool.true_eq_false,
        not_false_eq_true, not_true_eq_false, and_true, true_and, and_false, false_and,
        or_true, true_or, or_false, false_or, not_true, not_false_iff, iff_self, true_iff,
        iff_true, false_iff, iff_false, ite_self, decide_eq_decide, decide_False,
        decide_True, Bool.not_true, Bool.not_false]
  · set_option maxRecDepth 8000 in
    simp only [
        ↓reduceIte, h, h3, ↓fast_log.log_L_2TAG_PACKET_5_0_2_2_sem,
        ↓fast_log.log_L_2TAG_PACKET_5_0_2_1_sem, ↓fast_log.log_L_2TAG_PACKET_2_0_2_1_sem,
        ↓fast_log.log_L_2TAG_PACKET_0_0_2_1_sem, ↓fast_log.log_start_1_sem,
        ↓fast_log.log_entry_1_sem, ↓Machine.get_setx, ↓Machine.get_setg,
        ↓Machine.get_setstk, ↓Machine.get_enter, ↓Machine.get_setFlags,
        ↓Machine.trace_set, ↓Machine.get_ite, ↓Machine.trace_ite, ↓Machine.obs_eq_get,
        ↓Machine.flags_get, ↓Machine.flags_trace, ↓sem_get_1, ↓sem_get_2, ↓sem_get_3,
        ↓sem_get_4, ↓sem_trace_1, ↓sem_trace_2, ↓sem_trace_3, ↓sem_trace_4, ↓load_const,
        cc_iff, ea, and_imm, and_imm_left, ilog2_lit, or_eq_zero, or_mod32, or_lt_2p31,
        Nat.mod_mod, Nat.zero_or, Nat.or_zero, Nat.sub_zero, Nat.add_mod_right, lane_eq,
        Machine.io_eq_get, Nat.xor_self, Loc.x.injEq, Loc.g.injEq, Loc.m.injEq,
        Bool.toNat_eq_zero, Bool.toNat_eq_one, Nat.reducePow, Nat.reduceMul,
        Nat.reduceMod, Nat.reduceAdd, Nat.reduceSub, Nat.reduceDiv, Nat.reduceEqDiff,
        Nat.reduceLTLE, Nat.reduceLeDiff, Nat.reduceLT, Nat.reduceGT, Nat.reduceOr,
        Nat.reduceXor, reduceCtorEq, Bool.not_eq_true', Bool.not_eq_true,
        decide_eq_true_eq, decide_eq_false_iff_not, Bool.and_eq_true, Bool.or_eq_true,
        bne_iff_ne, beq_iff_eq, ne_eq, Bool.not_eq_false', Bool.not_eq_false, decide_not,
        not_not, Bool.decide_eq_true, Bool.false_eq_true, Bool.true_eq_false,
        not_false_eq_true, not_true_eq_false, and_true, true_and, and_false, false_and,
        or_true, true_or, or_false, false_or, not_true, not_false_iff, iff_self, true_iff,
        iff_true, false_iff, iff_false, ite_self, decide_eq_decide, decide_False,
        decide_True, Bool.not_true, Bool.not_false]
  · set_option maxRecDepth 8000 in
    simp only [
        ↓reduceIte, h, h3, ↓fast_log.log_L_2TAG_PACKET_5_0_2_1_sem,
        ↓fast_log.log_L_2TAG_PACKET_2_0_2_1_sem, ↓fast_log.log_L_2TAG_PACKET_0_0_2_1_sem,
        ↓fast_log.log_start_1_sem, ↓fast_log.log_entry_1_sem, ↓Machine.get_setx,
        ↓Machine.get_setg, ↓Machine.get_setstk, ↓Machine.get_enter, ↓Machine.get_setFlags,
        ↓Machine.trace_set, ↓Machine.get_ite, ↓Machine.trace_ite, ↓Machine.obs_eq_get,
        ↓Machine.flags_get, ↓Machine.flags_trace, ↓sem_get_1, ↓sem_get_2, ↓sem_get_3,
        ↓sem_get_4, ↓sem_trace_1, ↓sem_trace_2, ↓sem_trace_3, ↓sem_trace_4, ↓load_const,
        cc_iff, ea, and_imm, and_imm_left, ilog2_lit, or_eq_zero, or_mod32, or_lt_2p31,
        Nat.mod_mod, Nat.zero_or, Nat.or_zero, Nat.sub_zero, Nat.add_mod_right, lane_eq,
        Machine.io_eq_get, Nat.xor_self, Loc.x.injEq, Loc.g.injEq, Loc.m.injEq,
        Bool.toNat_eq_zero, Bool.toNat_eq_one, Nat.reducePow, Nat.reduceMul,
        Nat.reduceMod, Nat.reduceAdd, Nat.reduceSub, Nat.reduceDiv, Nat.reduceEqDiff,
        Nat.reduceLTLE, Nat.reduceLeDiff, Nat.reduceLT, Nat.reduceGT, Nat.reduceOr,
        Nat.reduceXor, reduceCtorEq, Bool.not_eq_true', Bool.not_eq_true,
        decide_eq_true_eq, decide_eq_false_iff_not, Bool.and_eq_true, Bool.or_eq_true,
        bne_iff_ne, beq_iff_eq, ne_eq, Bool.not_eq_false', Bool.not_eq_false, decide_not,
        not_not, Bool.decide_eq_true, Bool.false_eq_true, Bool.true_eq_false,
        not_false_eq_true, not_true_eq_false, and_true, true_and, and_false, false_and,
        or_true, true_or, or_false, false_or, not_true, not_false_iff, iff_self, true_iff,
        iff_true, false_iff, iff_false, ite_self, decide_eq_decide, decide_False,
        decide_True, Bool.not_true, Bool.not_false]
  · set_option maxRecDepth 8000 in
    simp only [
        ↓reduceIte, h, h3, ↓fast_log.log_L_2TAG_PACKET_2_0_2_1_sem,
        ↓fast_log.log_L_2TAG_PACKET_0_0_2_1_sem, ↓fast_log.log_start_1_sem,
        ↓fast_log.log_entry_1_sem, ↓Machine.get_setx, ↓Machine.get_setg,
        ↓Machine.get_setstk, ↓Machine.get_enter, ↓Machine.get_setFlags,
        ↓Machine.trace_set, ↓Machine.get_ite, ↓Machine.trace_ite, ↓Machine.obs_eq_get,
        ↓Machine.flags_get, ↓Machine.flags_trace, ↓sem_get_1, ↓sem_get_2, ↓sem_get_3,
        ↓sem_get_4, ↓sem_trace_1, ↓sem_trace_2, ↓sem_trace_3, ↓sem_trace_4, ↓load_const,
        cc_iff, ea, and_imm, and_imm_left, ilog2_lit, or_eq_zero, or_mod32, or_lt_2p31,
        Nat.mod_mod, Nat.zero_or, Nat.or_zero, Nat.sub_zero, Nat.add_mod_right, lane_eq,
        Machine.io_eq_get, Nat.xor_self, Loc.x.injEq, Loc.g.injEq, Loc.m.injEq,
        Bool.toNat_eq_zero, Bool.toNat_eq_one, Nat.reducePow, Nat.reduceMul,
        Nat.reduceMod, Nat.reduceAdd, Nat.reduceSub, Nat.reduceDiv, Nat.reduceEqDiff,
        Nat.reduceLTLE, Nat.reduceLeDiff, Nat.reduceLT, Nat.reduceGT, Nat.reduceOr,
        Nat.reduceXor, reduceCtorEq, Bool.not_eq_true', Bool.not_eq_true,
        decide_eq_true_eq, decide_eq_false_iff_not, Bool.and_eq_true, Bool.or_eq_true,
        bne_iff_ne, beq_iff_eq, ne_eq, Bool.not_eq_false', Bool.not_eq_false, decide_not,
        not_not, Bool.decide_eq_true, Bool.false_eq_true, Bool.true_eq_false,
        not_false_eq_true, not_true_eq_false, and_true, true_and, and_false, false_and,
        or_true, true_or, or_false, false_or, not_true, not_false_iff, iff_self, true_iff,
        iff_true, false_iff, iff_false, ite_self, decide_eq_decide, decide_False,
        decide_True, Bool.not_true, Bool.not_false]
  · set_option maxRecDepth 8000 in
    simp only [
        ↓reduceIte, h, h3, ↓fast_log.log_L_2TAG_PACKET_0_0_2_1_sem,
        ↓fast_log.log_start_1_sem, ↓fast_log.log_entry_1_sem, ↓Machine.get_setx,
        ↓Machine.get_setg, ↓Machine.get_setstk, ↓Machine.get_enter, ↓Machine.get_setFlags,
        ↓Machine.trace_set, ↓Machine.get_ite, ↓Machine.trace_ite, ↓Machine.obs_eq_get,
        ↓Machine.flags_get, ↓Machine.flags_trace, ↓sem_get_1, ↓sem_get_2, ↓sem_get_3,
        ↓sem_get_4, ↓sem_trace_1, ↓sem_trace_2, ↓sem_trace_3, ↓sem_trace_4, ↓load_const,
        cc_iff, ea, and_imm, and_imm_left, ilog2_lit, or_eq_zero, or_mod32, or_lt_2p31,
        Nat.mod_mod, Nat.zero_or, Nat.or_zero, Nat.sub_zero, Nat.add_mod_right, lane_eq,
        Machine.io_eq_get, Nat.xor_self, Loc.x.injEq, Loc.g.injEq, Loc.m.injEq,
        Bool.toNat_eq_zero, Bool.toNat_eq_one, Nat.reducePow, Nat.reduceMul,
        Nat.reduceMod, Nat.reduceAdd, Nat.reduceSub, Nat.reduceDiv, Nat.reduceEqDiff,
        Nat.reduceLTLE, Nat.reduceLeDiff, Nat.reduceLT, Nat.reduceGT, Nat.reduceOr,
        Nat.reduceXor, reduceCtorEq, Bool.not_eq_true', Bool.not_eq_true,
        decide_eq_true_eq, decide_eq_false_iff_not, Bool.and_eq_true, Bool.or_eq_true,
        bne_iff_ne, beq_iff_eq, ne_eq, Bool.not_eq_false', Bool.not_eq_false, decide_not,
        not_not, Bool.decide_eq_true, Bool.false_eq_true, Bool.true_eq_false,
        not_false_eq_true, not_true_eq_false, and_true, true_and, and_false, false_and,
        or_true, true_or, or_false, false_or, not_true, not_false_iff, iff_self, true_iff,
        iff_true, false_iff, iff_false, ite_self, decide_eq_decide, decide_False,
        decide_True, Bool.not_true, Bool.not_false]
  · set_option maxRecDepth 8000 in
    simp only [
        ↓reduceIte, h, h3, ↓fast_log.log_start_1_sem, ↓fast_log.log_entry_1_sem,
        ↓Machine.get_setx, ↓Machine.get_setg, ↓Machine.get_setstk, ↓Machine.get_enter,
        ↓Machine.get_setFlags, ↓Machine.trace_set, ↓Machine.get_ite, ↓Machine.trace_ite,
        ↓Machine.obs_eq_get, ↓Machine.flags_get, ↓Machine.flags_trace, ↓sem_get_1,
        ↓sem_get_2, ↓sem_get_3, ↓sem_get_4, ↓sem_trace_1, ↓sem_trace_2, ↓sem_trace_3,
        ↓sem_trace_4, ↓load_const, cc_iff, ea, and_imm, and_imm_left, ilog2_lit,
        or_eq_zero, or_mod32, or_lt_2p31, Nat.mod_mod, Nat.zero_or, Nat.or_zero,
        Nat.sub_zero, Nat.add_mod_right, lane_eq, Machine.io_eq_get, Nat.xor_self,
        Loc.x.injEq, Loc.g.injEq, Loc.m.injEq, Bool.toNat_eq_zero, Bool.toNat_eq_one,
        Nat.reducePow, Nat.reduceMul, Nat.reduceMod, Nat.reduceAdd, Nat.reduceSub,
        Nat.reduceDiv, Nat.reduceEqDiff, Nat.reduceLTLE, Nat.reduceLeDiff, Nat.reduceLT,
        Nat.reduceGT, Nat.reduceOr, Nat.reduceXor, reduceCtorEq, Bool.not_eq_true',
        Bool.not_eq_true, decide_eq_true_eq, decide_eq_false_iff_not, Bool.and_eq_true,
        Bool.or_eq_true, bne_iff_ne, beq_iff_eq, ne_eq, Bool.not_eq_false',
        Bool.not_eq_false, decide_not, not_not, Bool.decide_eq_true, Bool.false_eq_true,
        Bool.true_eq_false, not_false_eq_true, not_true_eq_false, and_true, true_and,
        and_false, false_and, or_true, true_or, or_false, false_or, not_true,
        not_false_iff, iff_self, true_iff, iff_true, false_iff, iff_false, ite_self,
        decide_eq_decide, decide_False, decide_True, Bool.not_true, Bool.not_false]

/-- C10: for every argument with the sign bit set that is neither `-0` nor a NaN (negative
normal and subnormal numbers and `-Inf`), `fast_log` returns a NaN, namely the default NaN
`0xFFF8000000000000` produced by `0 * Inf`. -/
theorem fast_log_negative (cpu : Cpu) (s : Machine) (hs : f64Sign s.arg0 = 1)
    (hz : s.arg0 ≠ 0x8000000000000000) (hn : f64IsNaN s.arg0 = false) :
    f64IsNaN (fast_log cpu s).result = true ∧
    (fast_log cpu s).result = 0xFFF8000000000000 := by
  have hlt := arg0_lt s
  simp only [f64Sign, f64IsNaN, f64Exp, f64Man, Nat.reducePow, decide_eq_false_iff_not] at hs hn
  have key : (fast_log cpu s).result = 0xFFF8000000000000 := by
    rcases Nat.lt_or_ge s.arg0 0xFFF0000000000000 with h | h
    · exact fast_log_neg_finite_run cpu s (by omega) h
    · exact fast_log_neg_inf_run cpu s (by omega)
  exact ⟨by rw [key]; decide, key⟩

theorem fast_log_negative_witness :
    (f64Sign (Machine.init 0xBFF0000000000000 0).arg0 = 1 ∧
      (Machine.init 0xBFF0000000000000 0).arg0 ≠ 0x8000000000000000 ∧
      f64IsNaN (Machine.init 0xBFF0000000000000 0).arg0 = false) ∧
    f64IsNaN (fast_log Cpu.sample (Machine.init 0xBFF0000000000000 0)).result = true ∧
    (fast_log Cpu.sample (Machine.init 0xBFF0000000000000 0)).result = 0xFFF8000000000000 :=
  ⟨by decide, fast_log_negative Cpu.sample (Machine.init 0xBFF0000000000000 0) (by decide)
    (by decide) (by decide)⟩

end MacroAssembler

namespace MacroAssembler
open XReg GReg Machine

/-! ### `fast_log` of `+Inf` and of NaNs -/

theorem f64Add_inf_inf : f64Add 0x7FF0000000000000 0x7FF0000000000000 = 0x7FF0000000000000 := by
  decide!

theorem fast_log_pos_inf_run (cpu : Cpu) (s : Machine) (h : s.arg0 = 0x7FF0000000000000) :
    (fast_log cpu s).result = 0x7FF0000000000000 := by
  simp only [Machine.io_eq_get, Nat.reducePow] at h
  have h3 : s.get (.x xmm0) / 281474976710656 % 65536 = 32752 := by omega
  rw [
      fast_log, fast_log.log_entry_eq, fast_log.log_start_eq, if_pos,
      fast_log.log_L_2TAG_PACKET_0_0_2_eq, if_neg, if_neg,
      fast_log.log_L_2TAG_PACKET_4_0_2_eq, fast_log.log_B1_5_eq]
  · set_option maxRecDepth 8000 in
    simp only [
        ↓reduceIte, f64Add_inf_inf, h, h3, ↓fast_log.log_B1_5_1_sem,
        ↓fast_log.log_L_2TAG_PACKET_4_0_2_1_sem, ↓fast_log.log_L_2TAG_PACKET_0_0_2_3_sem,
        ↓fast_log.log_L_2TAG_PACKET_0_0_2_2_sem, ↓fast_log.log_L_2TAG_PACKET_0_0_2_1_sem,
        ↓fast_log.log_start_1_sem, ↓fast_log.log_entry_1_sem, ↓Machine.get_setx,
        ↓Machine.get_setg, ↓Machine.get_setstk, ↓Machine.get_enter, ↓Machine.get_setFlags,
        ↓Machine.trace_set, ↓Machine.get_ite, ↓Machine.trace_ite, ↓Machine.obs_eq_get,
        ↓Machine.flags_get, ↓Machine.flags_trace, ↓sem_get_1, ↓sem_get_2, ↓sem_get_3,
        ↓sem_get_4, ↓sem_trace_1, ↓sem_trace_2, ↓sem_trace_3, ↓sem_trace_4, ↓load_const,
        cc_iff, ea, and_imm, and_imm_left, ilog2_lit, or_eq_zero, or_mod32, or_lt_2p31,
        Nat.mod_mod, Nat.zero_or, Nat.or_zero, Nat.sub_zero, Nat.add_mod_right, lane_eq,
        Machine.io_eq_get, Nat.xor_self, Loc.x.injEq, Loc.g.injEq, Loc.m.injEq,
        Bool.toNat_eq_zero, Bool.toNat_eq_one, Nat.reducePow, Nat.reduceMul,
        Nat.reduceMod, Nat.reduceAdd, Nat.reduceSub, Nat.reduceDiv, Nat.reduceEqDiff,
        Nat.reduceLTLE, Nat.reduceLeDiff, Nat.reduceLT, Nat.reduceGT, Nat.reduceOr,
        Nat.reduceXor, reduceCtorEq, Bool.not_eq_true', Bool.not_eq_true,
        decide_eq_true_eq, decide_eq_false_iff_not, Bool.and_eq_true, Bool.or_eq_true,
        bne_iff_ne, beq_iff_eq, ne_eq, Bool.not_eq_false', Bool.not_eq_false, decide_not,
        not_not, Bool.decide_eq_true, Bool.false_eq_true, Bool.true_eq_false,
        not_false_eq_true, not_true_eq_false, and_true, true_and, and_false, false_and,
        or_true, true_or, or_false, false_or, not_true, not_false_iff, iff_self, true_iff,
        iff_true, false_iff, iff_false, ite_self, decide_eq_decide, decide_False,
        decide_True, Bool.not_true, Bool.not_false]
  · set_option maxRecDepth 8000 in
    simp only [
        ↓reduceIte, h, h3, ↓fast_log.log_L_2TAG_PACKET_0_0_2_2_sem,
        ↓fast_log.log_L_2TAG_PACKET_0_0_2_1_sem, ↓fast_log.log_start_1_sem,
        ↓fast_log.log_entry_1_sem, ↓Machine.get_setx, ↓Machine.get_setg,
        ↓Machine.get_setstk, ↓Machine.get_enter, ↓Machine.get_setFlags,
        ↓Machine.trace_set, ↓Machine.get_ite, ↓Machine.trace_ite, ↓Machine.obs_eq_get,
        ↓Machine.flags_get, ↓Machine.flags_trace, ↓sem_get_1, ↓sem_get_2, ↓sem_get_3,
        ↓sem_get_4, ↓sem_trace_1, ↓sem_trace_2, ↓sem_trace_3, ↓sem_trace_4, ↓load_const,
        cc_iff, ea, and_imm, and_imm_left, ilog2_lit, or_eq_zero, or_mod32, or_lt_2p31,
        Nat.mod_mod, Nat.zero_or, Nat.or_zero, Nat.sub_zero, Nat.add_mod_right, lane_eq,
        Machine.io_eq_get, Nat.xor_self, Loc.x.injEq, Loc.g.injEq, Loc.m.injEq,
        Bool.toNat_eq_zero, Bool.toNat_eq_one, Nat.reducePow, Nat.reduceMul,
        Nat.reduceMod, Nat.reduceAdd, Nat.reduceSub, Nat.reduceDiv, Nat.reduceEqDiff,
        Nat.reduceLTLE, Nat.reduceLeDiff, Nat.reduceLT, Nat.reduceGT, Nat.reduceOr,
        Nat.reduceXor, reduceCtorEq, Bool.not_eq_true', Bool.not_eq_true,
        decide_eq_true_eq, decide_eq_false_iff_not, Bool.and_eq_true, Bool.or_eq_true,
        bne_iff_ne, beq_iff_eq, ne_eq, Bool.not_eq_false', Bool.not_eq_false, decide_not,
        not_not, Bool.decide_eq_true, Bool.false_eq_true, Bool.true_eq_false,
        not_false_eq_true, not_true_eq_false, and_true, true_and, and_false, false_and,
        or_true, true_or, or_false, false_or, not_true, not_false_iff, iff_self, true_iff,
        iff_true, false_iff, iff_false, ite_self, decide_eq_decide, decide_False,
        decide_True, Bool.not_true, Bool.not_false]
  · set_option maxRecDepth 8000 in
    simp only [
        ↓reduceIte, h, h3, ↓fast_log.log_L_2TAG_PACKET_0_0_2_1_sem,
        ↓fast_log.log_start_1_sem, ↓fast_log.log_entry_1_sem, ↓Machine.get_setx,
        ↓Machine.get_setg, ↓Machine.get_setstk, ↓Machine.get_enter, ↓Machine.get_setFlags,
        ↓Machine.trace_set, ↓Machine.get_ite, ↓Machine.trace_ite, ↓Machine.obs_eq_get,
        ↓Machine.flags_get, ↓Machine.flags_trace, ↓sem_get_1, ↓sem_get_2, ↓sem_get_3,
        ↓sem_get_4, ↓sem_trace_1, ↓sem_trace_2, ↓sem_trace_3, ↓sem_trace_4, ↓load_const,
        cc_iff, ea, and_imm, and_imm_left, ilog2_lit, or_eq_zero, or_mod32, or_lt_2p31,
        Nat.mod_mod, Nat.zero_or, Nat.or_zero, Nat.sub_zero, Nat.add_mod_right, lane_eq,
        Machine.io_eq_get, Nat.xor_self, Loc.x.injEq, Loc.g.injEq, Loc.m.injEq,
        Bool.toNat_eq_zero, Bool.toNat_eq_one, Nat.reducePow, Nat.reduceMul,
        Nat.reduceMod, Nat.reduceAdd, Nat.reduceSub, Nat.reduceDiv, Nat.reduceEqDiff,
        Nat.reduceLTLE, Nat.reduceLeDiff, Nat.reduceLT, Nat.reduceGT, Nat.reduceOr,
        Nat.reduceXor, reduceCtorEq, Bool.not_eq_true', Bool.not_eq_true,
        decide_eq_true_eq, decide_eq_false_iff_not, Bool.and_eq_true, Bool.or_eq_true,
        bne_iff_ne, beq_iff_eq, ne_eq, Bool.not_eq_false', Bool.not_eq_false, decide_not,
        not_not, Bool.decide_eq_true, Bool.false_eq_true, Bool.true_eq_false,
        not_false_eq_true, not_true_eq_false, and_true, true_and, and_false, false_and,
        or_true, true_or, or_false, false_or, not_true, not_false_iff, iff_self, true_iff,
        iff_true, false_iff, iff_false, ite_self, decide_eq_decide, decide_False,
        decide_True, Bool.not_true, Bool.not_false]
  · set_option maxRecDepth 8000 in
    simp only [
        ↓reduceIte, h, h3, ↓fast_log.log_start_1_sem, ↓fast_log.log_entry_1_sem,
        ↓Machine.get_setx, ↓Machine.get_setg, ↓Machine.get_setstk, ↓Machine.get_enter,
        ↓Machine.get_setFlags, ↓Machine.trace_set, ↓Machine.get_ite, ↓Machine.trace_ite,
        ↓Machine.obs_eq_get, ↓Machine.flags_get, ↓Machine.flags_trace, ↓sem_get_1,
        ↓sem_get_2, ↓sem_get_3, ↓sem_get_4, ↓sem_trace_1, ↓sem_trace_2, ↓sem_trace_3,
        ↓sem_trace_4, ↓load_const, cc_iff, ea, and_imm, and_imm_left, ilog2_lit,
        or_eq_zero, or_mod32, or_lt_2p31, Nat.mod_mod, Nat.zero_or, Nat.or_zero,
        Nat.sub_zero, Nat.add_mod_right, lane_eq, Machine.io_eq_get, Nat.xor_self,
        Loc.x.injEq, Loc.g.injEq, Loc.m.injEq, Bool.toNat_eq_zero, Bool.toNat_eq_one,
        Nat.reducePow, Nat.reduceMul, Nat.reduceMod, Nat.reduceAdd, Nat.reduceSub,
        Nat.reduceDiv, Nat.reduceEqDiff, Nat.reduceLTLE, Nat.reduceLeDiff, Nat.reduceLT,
        Nat.reduceGT, Nat.reduceOr, Nat.reduceXor, reduceCtorEq, Bool.not_eq_true',
        Bool.not_eq_true, decide_eq_true_eq, decide_eq_false_iff_not, Bool.and_eq_true,
        Bool.or_eq_true, bne_iff_ne, beq_iff_eq, ne_eq, Bool.not_eq_false',
        Bool.not_eq_false, decide_not, not_not, Bool.decide_eq_true, Bool.false_eq_true,
        Bool.true_eq_false, not_false_eq_true, not_true_eq_false, and_true, true_and,
        and_false, false_and, or_true, true_or, or_false, false_or, not_true,
        not_false_iff, iff_self, true_iff, iff_true, false_iff, iff_false, ite_self,
        decide_eq_decide, decide_False, decide_True, Bool.not_true, Bool.not_false]

theorem fast_log_pos_nan_run (cpu : Cpu) (s : Machine) (h1 : 0x7FF0000000000000 < s.arg0)
    (h2 : s.arg0 < 0x8000000000000000) :
    (fast_log cpu s).result = f64Quiet s.arg0 := by
  have hn : f64IsNaN s.arg0 = true := by
    simp only [f64IsNaN, f64Exp, f64Man, Nat.reducePow, decide_eq_true_eq]
    omega
  simp only [Machine.io_eq_get, Nat.reducePow] at h1 h2 hn
  rw [
      fast_log, fast_log.log_entry_eq, fast_log.log_start_eq, if_pos,
      fast_log.log_L_2TAG_PACKET_0_0_2_eq, if_neg, if_neg,
      fast_log.log_L_2TAG_PACKET_4_0_2_eq, fast_log.log_B1_5_eq]
  · set_option maxRecDepth 8000 in
    simp only [
        ↓reduceIte, Nat.mod_mod, ↓fast_log.log_B1_5_1_sem,
        ↓fast_log.log_L_2TAG_PACKET_4_0_2_1_sem, ↓fast_log.log_L_2TAG_PACKET_0_0_2_3_sem,
        ↓fast_log.log_L_2TAG_PACKET_0_0_2_2_sem, ↓fast_log.log_L_2TAG_PACKET_0_0_2_1_sem,
        ↓fast_log.log_start_1_sem, ↓fast_log.log_entry_1_sem, ↓Machine.get_setx,
        ↓Machine.get_setg, ↓Machine.get_setstk, ↓Machine.get_enter, ↓Machine.get_setFlags,
        ↓Machine.trace_set, ↓Machine.get_ite, ↓Machine.trace_ite, ↓Machine.obs_eq_get,
        ↓Machine.flags_get, ↓Machine.flags_trace, ↓sem_get_1, ↓sem_get_2, ↓sem_get_3,
        ↓sem_get_4, ↓sem_trace_1, ↓sem_trace_2, ↓sem_trace_3, ↓sem_trace_4, ↓load_const,
        cc_iff, ea, and_imm, and_imm_left, ilog2_lit, or_eq_zero, or_mod32, or_lt_2p31,
        Nat.mod_mod, Nat.zero_or, Nat.or_zero, Nat.sub_zero, Nat.add_mod_right, lane_eq,
        Machine.io_eq_get, Nat.xor_self, Loc.x.injEq, Loc.g.injEq, Loc.m.injEq,
        Bool.toNat_eq_zero, Bool.toNat_eq_one, Nat.reducePow, Nat.reduceMul,
        Nat.reduceMod, Nat.reduceAdd, Nat.reduceSub, Nat.reduceDiv, Nat.reduceEqDiff,
        Nat.reduceLTLE, Nat.reduceLeDiff, Nat.reduceLT, Nat.reduceGT, Nat.reduceOr,
        Nat.reduceXor, reduceCtorEq, Bool.not_eq_true', Bool.not_eq_true,
        decide_eq_true_eq, decide_eq_false_iff_not, Bool.and_eq_true, Bool.or_eq_true,
        bne_iff_ne, beq_iff_eq, ne_eq, Bool.not_eq_false', Bool.not_eq_false, decide_not,
        not_not, Bool.decide_eq_true, Bool.false_eq_true, Bool.true_eq_false,
        not_false_eq_true, not_true_eq_false, and_true, true_and, and_false, false_and,
        or_true, true_or, or_false, false_or, not_true, not_false_iff, iff_self, true_iff,
        iff_true, false_iff, iff_false, ite_self, decide_eq_decide, decide_False,
        decide_True, Bool.not_true, Bool.not_false]
    rw [f64Add_of_isNaN _ _ hn]
    have := f64Quiet_lt (s.get (.x xmm0) % 18446744073709551616) (by omega)
    all_goals omega
  · set_option maxRecDepth 8000 in
    simp only [
        ↓reduceIte, ↓fast_log.log_L_2TAG_PACKET_0_0_2_2_sem,
        ↓fast_log.log_L_2TAG_PACKET_0_0_2_1_sem, ↓fast_log.log_start_1_sem,
        ↓fast_log.log_entry_1_sem, ↓Machine.get_setx, ↓Machine.get_setg,
        ↓Machine.get_setstk, ↓Machine.get_enter, ↓Machine.get_setFlags,
        ↓Machine.trace_set, ↓Machine.get_ite, ↓Machine.trace_ite, ↓Machine.obs_eq_get,
        ↓Machine.flags_get, ↓Machine.flags_trace, ↓sem_get_1, ↓sem_get_2, ↓sem_get_3,
        ↓sem_get_4, ↓sem_trace_1, ↓sem_trace_2, ↓sem_trace_3, ↓sem_trace_4, ↓load_const,
        cc_iff, ea, and_imm, and_imm_left, ilog2_lit, or_eq_zero, or_mod32, or_lt_2p31,
        Nat.mod_mod, Nat.zero_or, Nat.or_zero, Nat.sub_zero, Nat.add_mod_right, lane_eq,
        Machine.io_eq_get, Nat.xor_self, Loc.x.injEq, Loc.g.injEq, Loc.m.injEq,
        Bool.toNat_eq_zero, Bool.toNat_eq_one, Nat.reducePow, Nat.reduceMul,
        Nat.reduceMod, Nat.reduceAdd, Nat.reduceSub, Nat.reduceDiv, Nat.reduceEqDiff,
        Nat.reduceLTLE, Nat.reduceLeDiff, Nat.reduceLT, Nat.reduceGT, Nat.reduceOr,
        Nat.reduceXor, reduceCtorEq, Bool.not_eq_true', Bool.not_eq_true,
        decide_eq_true_eq, decide_eq_false_iff_not, Bool.and_eq_true, Bool.or_eq_true,
        bne_iff_ne, beq_iff_eq, ne_eq, Bool.not_eq_false', Bool.not_eq_false, decide_not,
        not_not, Bool.decide_eq_true, Bool.false_eq_true, Bool.true_eq_false,
        not_false_eq_true, not_true_eq_false, and_true, true_and, and_false, false_and,
        or_true, true_or, or_false, false_or, not_true, not_false_iff, iff_self, true_iff,
        iff_true, false_iff, iff_false, ite_self, decide_eq_decide, decide_False,
        decide_True, Bool.not_true, Bool.not_false]
    all_goals omega
  · set_option maxRecDepth 8000 in
    simp only [
        ↓reduceIte, ↓fast_log.log_L_2TAG_PACKET_0_0_2_1_sem, ↓fast_log.log_start_1_sem,
        ↓fast_log.log_entry_1_sem, ↓Machine.get_setx, ↓Machine.get_setg,
        ↓Machine.get_setstk, ↓Machine.get_enter, ↓Machine.get_setFlags,
        ↓Machine.trace_set, ↓Machine.get_ite, ↓Machine.trace_ite, ↓Machine.obs_eq_get,
        ↓Machine.flags_get, ↓Machine.flags_trace, ↓sem_get_1, ↓sem_get_2, ↓sem_get_3,
        ↓sem_get_4, ↓sem_trace_1, ↓sem_trace_2, ↓sem_trace_3, ↓sem_trace_4, ↓load_const,
        cc_iff, ea, and_imm, and_imm_left, ilog2_lit, or_eq_zero, or_mod32, or_lt_2p31,
        Nat.mod_mod, Nat.zero_or, Nat.or_zero, Nat.sub_zero, Nat.add_mod_right, lane_eq,
        Machine.io_eq_get, Nat.xor_self, Loc.x.injEq, Loc.g.injEq, Loc.m.injEq,
        Bool.toNat_eq_zero, Bool.toNat_eq_one, Nat.reducePow, Nat.reduceMul,
        Nat.reduceMod, Nat.reduceAdd, Nat.reduceSub, Nat.reduceDiv, Nat.reduceEqDiff,
        Nat.reduceLTLE, Nat.reduceLeDiff, Nat.reduceLT, Nat.reduceGT, Nat.reduceOr,
        Nat.reduceXor, reduceCtorEq, Bool.not_eq_true', Bool.not_eq_true,
        decide_eq_true_eq, decide_eq_false_iff_not, Bool.and_eq_true, Bool.or_eq_true,
        bne_iff_ne, beq_iff_eq, ne_eq, Bool.not_eq_false', Bool.not_eq_false, decide_not,
        not_not, Bool.decide_eq_true, Bool.false_eq_true, Bool.true_eq_false,
        not_false_eq_true, not_true_eq_false, and_true, true_and, and_false, false_and,
        or_true, true_or, or_false, false_or, not_true, not_false_iff, iff_self, true_iff,
        iff_true, false_iff, iff_false, ite_self, decide_eq_decide, decide_False,
        decide_True, Bool.not_true, Bool.not_false]
    all_goals omega
  · set_option maxRecDepth 8000 in
    simp only [
        ↓reduceIte, ↓fast_log.log_start_1_sem, ↓fast_log.log_entry_1_sem,
        ↓Machine.get_setx, ↓Machine.get_setg, ↓Machine.get_setstk, ↓Machine.get_enter,
        ↓Machine.get_setFlags, ↓Machine.trace_set, ↓Machine.get_ite, ↓Machine.trace_ite,
        ↓Machine.obs_eq_get, ↓Machine.flags_get, ↓Machine.flags_trace, ↓sem_get_1,
        ↓sem_get_2, ↓sem_get_3, ↓sem_get_4, ↓sem_trace_1, ↓sem_trace_2, ↓sem_trace_3,
        ↓sem_trace_4, ↓load_const, cc_iff, ea, and_imm, and_imm_left, ilog2_lit,
        or_eq_zero, or_mod32, or_lt_2p31, Nat.mod_mod, Nat.zero_or, Nat.or_zero,
        Nat.sub_zero, Nat.add_mod_right, lane_eq, Machine.io_eq_get, Nat.xor_self,
        Loc.x.injEq, Loc.g.injEq, Loc.m.injEq, Bool.toNat_eq_zero, Bool.toNat_eq_one,
        Nat.reducePow, Nat.reduceMul, Nat.reduceMod, Nat.reduceAdd, Nat.reduceSub,
        Nat.reduceDiv, Nat.reduceEqDiff, Nat.reduceLTLE, Nat.reduceLeDiff, Nat.reduceLT,
        Nat.reduceGT, Nat.reduceOr, Nat.reduceXor, reduceCtorEq, Bool.not_eq_true',
        Bool.not_eq_true, decide_eq_true_eq, decide_eq_false_iff_not, Bool.and_eq_true,
        Bool.or_eq_true, bne_iff_ne, beq_iff_eq, ne_eq, Bool.not_eq_false',
        Bool.not_eq_false, decide_not, not_not, Bool.decide_eq_true, Bool.false_eq_true,
        Bool.true_eq_false, not_false_eq_true, not_true_eq_false, and_true, true_and,
        and_false, false_and, or_true, true_or, or_false, false_or, not_true,
        not_false_iff, iff_self, true_iff, iff_true, false_iff, iff_false, ite_self,
        decide_eq_decide, decide_False, decide_True, Bool.not_true, Bool.not_false]
    all_goals omega

theorem fast_log_neg_nan_hi_run (cpu : Cpu) (s : Machine)
    (h1 : 0xFFF0000000000000 < s.arg0) (h2 : s.arg0 / 2 ^ 32 % 2 ^ 20 ≠ 0) :
    (fast_log cpu s).result = f64Quiet s.arg0 := by
  have hn : f64IsNaN s.arg0 = true := by
    have := arg0_lt s
    simp only [f64IsNaN, f64Exp, f64Man, Nat.reducePow, decide_eq_true_eq]
    omega
  simp only [Machine.io_eq_get, Nat.reducePow] at h1 h2 hn
  rw [
      fast_log, fast_log.log_entry_eq, fast_log.log_start_eq, if_pos,
      fast_log.log_L_2TAG_PACKET_0_0_2_eq, if_pos, fast_log.log_L_2TAG_PACKET_2_0_2_eq,
      if_pos, fast_log.log_L_2TAG_PACKET_5_0_2_eq, if_pos,
      fast_log.log_L_2TAG_PACKET_4_0_2_eq, fast_log.log_B1_5_eq]
  · set_option maxRecDepth 8000 in
    simp only [
        ↓reduceIte, Nat.mod_mod, ↓fast_log.log_B1_5_1_sem,
        ↓fast_log.log_L_2TAG_PACKET_4_0_2_1_sem, ↓fast_log.log_L_2TAG_PACKET_5_0_2_1_sem,
        ↓fast_log.log_L_2TAG_PACKET_2_0_2_1_sem, ↓fast_log.log_L_2TAG_PACKET_0_0_2_1_sem,
        ↓fast_log.log_start_1_sem, ↓fast_log.log_entry_1_sem, ↓Machine.get_setx,
        ↓Machine.get_setg, ↓Machine.get_setstk, ↓Machine.get_enter, ↓Machine.get_setFlags,
        ↓Machine.trace_set, ↓Machine.get_ite, ↓Machine.trace_ite, ↓Machine.obs_eq_get,
        ↓Machine.flags_get, ↓Machine.flags_trace, ↓sem_get_1, ↓sem_get_2, ↓sem_get_3,
        ↓sem_get_4, ↓sem_trace_1, ↓sem_trace_2, ↓sem_trace_3, ↓sem_trace_4, ↓load_const,
        cc_iff, ea, and_imm, and_imm_left, ilog2_lit, or_eq_zero, or_mod32, or_lt_2p31,
        Nat.mod_mod, Nat.zero_or, Nat.or_zero, Nat.sub_zero, Nat.add_mod_right, lane_eq,
        Machine.io_eq_get, Nat.xor_self, Loc.x.injEq, Loc.g.injEq, Loc.m.injEq,
        Bool.toNat_eq_zero, Bool.toNat_eq_one, Nat.reducePow, Nat.reduceMul,
        Nat.reduceMod, Nat.reduceAdd, Nat.reduceSub, Nat.reduceDiv, Nat.reduceEqDiff,
        Nat.reduceLTLE, Nat.reduceLeDiff, Nat.reduceLT, Nat.reduceGT, Nat.reduceOr,
        Nat.reduceXor, reduceCtorEq, Bool.not_eq_true', Bool.not_eq_true,
        decide_eq_true_eq, decide_eq_false_iff_not, Bool.and_eq_true, Bool.or_eq_true,
        bne_iff_ne, beq_iff_eq, ne_eq, Bool.not_eq_false', Bool.not_eq_false, decide_not,
        not_not, Bool.decide_eq_true, Bool.false_eq_true, Bool.true_eq_false,
        not_false_eq_true, not_true_eq_false, and_true, true_and, and_false, false_and,
        or_true, true_or, or_false, false_or, not_true, not_false_iff, iff_self, true_iff,
        iff_true, false_iff, iff_false, ite_self, decide_eq_decide, decide_False,
        decide_True, Bool.not_true, Bool.not_false]
    rw [f64Add_of_isNaN _ _ hn]
    have := f64Quiet_lt (s.get (.x xmm0) % 18446744073709551616) (by omega)
    all_goals omega
  · set_option maxRecDepth 8000 in
    simp only [
        ↓reduceIte, ↓fast_log.log_L_2TAG_PACKET_5_0_2_1_sem,
        ↓fast_log.log_L_2TAG_PACKET_2_0_2_1_sem, ↓fast_log.log_L_2TAG_PACKET_0_0_2_1_sem,
        ↓fast_log.log_start_1_sem, ↓fast_log.log_entry_1_sem, ↓Machine.get_setx,
        ↓Machine.get_setg, ↓Machine.get_setstk, ↓Machine.get_enter, ↓Machine.get_setFlags,
        ↓Machine.trace_set, ↓Machine.get_ite, ↓Machine.trace_ite, ↓Machine.obs_eq_get,
        ↓Machine.flags_get, ↓Machine.flags_trace, ↓sem_get_1, ↓sem_get_2, ↓sem_get_3,
        ↓sem_get_4, ↓sem_trace_1, ↓sem_trace_2, ↓sem_trace_3, ↓sem_trace_4, ↓load_const,
        cc_iff, ea, and_imm, and_imm_left, ilog2_lit, or_eq_zero, or_mod32, or_lt_2p31,
        Nat.mod_mod, Nat.zero_or, Nat.or_zero, Nat.sub_zero, Nat.add_mod_right, lane_eq,
        Machine.io_eq_get, Nat.xor_self, Loc.x.injEq, Loc.g.injEq, Loc.m.injEq,
        Bool.toNat_eq_zero, Bool.toNat_eq_one, Nat.reducePow, Nat.reduceMul,
        Nat.reduceMod, Nat.reduceAdd, Nat.reduceSub, Nat.reduceDiv, Nat.reduceEqDiff,
        Nat.reduceLTLE, Nat.reduceLeDiff, Nat.reduceLT, Nat.reduceGT, Nat.reduceOr,
        Nat.reduceXor, reduceCtorEq, Bool.not_eq_true', Bool.not_eq_true,
        decide_eq_true_eq, decide_eq_false_iff_not, Bool.and_eq_true, Bool.or_eq_true,
        bne_iff_ne, beq_iff_eq, ne_eq, Bool.not_eq_false', Bool.not_eq_false, decide_not,
        not_not, Bool.decide_eq_true, Bool.false_eq_true, Bool.true_eq_false,
        not_false_eq_true, not_true_eq_false, and_true, true_and, and_false, false_and,
        or_true, true_or, or_false, false_or, not_true, not_false_iff, iff_self, true_iff,
        iff_true, false_iff, iff_false, ite_self, decide_eq_decide, decide_False,
        decide_True, Bool.not_true, Bool.not_false]
    all_goals omega
  · set_option maxRecDepth 8000 in
    simp only [
        ↓reduceIte, ↓fast_log.log_L_2TAG_PACKET_2_0_2_1_sem,
        ↓fast_log.log_L_2TAG_PACKET_0_0_2_1_sem, ↓fast_log.log_start_1_sem,
        ↓fast_log.log_entry_1_sem, ↓Machine.get_setx, ↓Machine.get_setg,
        ↓Machine.get_setstk, ↓Machine.get_enter, ↓Machine.get_setFlags,
        ↓Machine.trace_set, ↓Machine.get_ite, ↓Machine.trace_ite, ↓Machine.obs_eq_get,
        ↓Machine.flags_get, ↓Machine.flags_trace, ↓sem_get_1, ↓sem_get_2, ↓sem_get_3,
        ↓sem_get_4, ↓sem_trace_1, ↓sem_trace_2, ↓sem_trace_3, ↓sem_trace_4, ↓load_const,
        cc_iff, ea, and_imm, and_imm_left, ilog2_lit, or_eq_zero, or_mod32, or_lt_2p31,
        Nat.mod_mod, Nat.zero_or, Nat.or_zero, Nat.sub_zero, Nat.add_mod_right, lane_eq,
        Machine.io_eq_get, Nat.xor_self, Loc.x.injEq, Loc.g.injEq, Loc.m.injEq,
        Bool.toNat_eq_zero, Bool.toNat_eq_one, Nat.reducePow, Nat.reduceMul,
        Nat.reduceMod, Nat.reduceAdd, Nat.reduceSub, Nat.reduceDiv, Nat.reduceEqDiff,
        Nat.reduceLTLE, Nat.reduceLeDiff, Nat.reduceLT, Nat.reduceGT, Nat.reduceOr,
        Nat.reduceXor, reduceCtorEq, Bool.not_eq_true', Bool.not_eq_true,
        decide_eq_true_eq, decide_eq_false_iff_not, Bool.and_eq_true, Bool.or_eq_true,
        bne_iff_ne, beq_iff_eq, ne_eq, Bool.not_eq_false', Bool.not_eq_false, decide_not,
        not_not, Bool.decide_eq_true, Bool.false_eq_true, Bool.true_eq_false,
        not_false_eq_true, not_true_eq_false, and_true, true_and, and_false, false_and,
        or_true, true_or, or_false, false_or, not_true, not_false_iff, iff_self, true_iff,
        iff_true, false_iff, iff_false, ite_self, decide_eq_decide, decide_False,
        decide_True, Bool.not_true, Bool.not_false]
    all_goals omega
  · set_option maxRecDepth 8000 in
    simp only [
        ↓reduceIte, ↓fast_log.log_L_2TAG_PACKET_0_0_2_1_sem, ↓fast_log.log_start_1_sem,
        ↓fast_log.log_entry_1_sem, ↓Machine.get_setx, ↓Machine.get_setg,
        ↓Machine.get_setstk, ↓Machine.get_enter, ↓Machine.get_setFlags,
        ↓Machine.trace_set, ↓Machine.get_ite, ↓Machine.trace_ite, ↓Machine.obs_eq_get,
        ↓Machine.flags_get, ↓Machine.flags_trace, ↓sem_get_1, ↓sem_get_2, ↓sem_get_3,
        ↓sem_get_4, ↓sem_trace_1, ↓sem_trace_2, ↓sem_trace_3, ↓sem_trace_4, ↓load_const,
        cc_iff, ea, and_imm, and_imm_left, ilog2_lit, or_eq_zero, or_mod32, or_lt_2p31,
        Nat.mod_mod, Nat.zero_or, Nat.or_zero, Nat.sub_zero, Nat.add_mod_right, lane_eq,
        Machine.io_eq_get, Nat.xor_self, Loc.x.injEq, Loc.g.injEq, Loc.m.injEq,
        Bool.toNat_eq_zero, Bool.toNat_eq_one, Nat.reducePow, Nat.reduceMul,
        Nat.reduceMod, Nat.reduceAdd, Nat.reduceSub, Nat.reduceDiv, Nat.reduceEqDiff,
        Nat.reduceLTLE, Nat.reduceLeDiff, Nat.reduceLT, Nat.reduceGT, Nat.reduceOr,
        Nat.reduceXor, reduceCtorEq, Bool.not_eq_true', Bool.not_eq_true,
        decide_eq_true_eq, decide_eq_false_iff_not, Bool.and_eq_true, Bool.or_eq_true,
        bne_iff_ne, beq_iff_eq, ne_eq, Bool.not_eq_false', Bool.not_eq_false, decide_not,
        not_not, Bool.decide_eq_true, Bool.false_eq_true, Bool.true_eq_false,
        not_false_eq_true, not_true_eq_false, and_true, true_and, and_false, false_and,
        or_true, true_or, or_false, false_or, not_true, not_false_iff, iff_self, true_iff,
        iff_true, false_iff, iff_false, ite_self, decide_eq_decide, decide_False,
        decide_True, Bool.not_true, Bool.not_false]
    all_goals omega
  · set_option maxRecDepth 8000 in
    simp only [
        ↓reduceIte, ↓fast_log.log_start_1_sem, ↓fast_log.log_entry_1_sem,
        ↓Machine.get_setx, ↓Machine.get_setg, ↓Machine.get_setstk, ↓Machine.get_enter,
        ↓Machine.get_setFlags, ↓Machine.trace_set, ↓Machine.get_ite, ↓Machine.trace_ite,
        ↓Machine.obs_eq_get, ↓Machine.flags_get, ↓Machine.flags_trace, ↓sem_get_1,
        ↓sem_get_2, ↓sem_get_3, ↓sem_get_4, ↓sem_trace_1, ↓sem_trace_2, ↓sem_trace_3,
        ↓sem_trace_4, ↓load_const, cc_iff, ea, and_imm, and_imm_left, ilog2_lit,
        or_eq_zero, or_mod32, or_lt_2p31, Nat.mod_mod, Nat.zero_or, Nat.or_zero,
        Nat.sub_zero, Nat.add_mod_right, lane_eq, Machine.io_eq_get, Nat.xor_self,
        Loc.x.injEq, Loc.g.injEq, Loc.m.injEq, Bool.toNat_eq_zero, Bool.toNat_eq_one,
        Nat.reducePow, Nat.reduceMul, Nat.reduceMod, Nat.reduceAdd, Nat.reduceSub,
        Nat.reduceDiv, Nat.reduceEqDiff, Nat.reduceLTLE, Nat.reduceLeDiff, Nat.reduceLT,
        Nat.reduceGT, Nat.reduceOr, Nat.reduceXor, reduceCtorEq, Bool.not_eq_true',
        Bool.not_eq_true, decide_eq_true_eq, decide_eq_false_iff_not, Bool.and_eq_true,
        Bool.or_eq_true, bne_iff_ne, beq_iff_eq, ne_eq, Bool.not_eq_false',
        Bool.not_eq_false, decide_not, not_not, Bool.decide_eq_true, Bool.false_eq_true,
        Bool.true_eq_false, not_false_eq_true, not_true_eq_false, and_true, true_and,
        and_false, false_and, or_true, true_or, or_false, false_or, not_true,
        not_false_iff, iff_self, true_iff, iff_true, false_iff, iff_false, ite_self,
        decide_eq_decide, decide_False, decide_True, Bool.not_true, Bool.not_false]
    all_goals omega

theorem fast_log_neg_nan_lo_run (cpu : Cpu) (s : Machine)
    (h1 : 0xFFF0000000000000 < s.arg0) (h2 : s.arg0 / 2 ^ 32 % 2 ^ 20 = 0) :
    (fast_log cpu s).result = f64Quiet s.arg0 := by
  have hn : f64IsNaN s.arg0 = true := by
    have := arg0_lt s
    simp only [f64IsNaN, f64Exp, f64Man, Nat.reducePow, decide_eq_true_eq]
    omega
  have hlt := arg0_lt s
  simp only [Machine.io_eq_get, Nat.reducePow] at h1 h2 hn hlt
  rw [
      fast_log, fast_log.log_entry_eq, fast_log.log_start_eq, if_pos,
      fast_log.log_L_2TAG_PACKET_0_0_2_eq, if_pos, fast_log.log_L_2TAG_PACKET_2_0_2_eq,
      if_pos, fast_log.log_L_2TAG_PACKET_5_0_2_eq, if_neg, if_pos,
      fast_log.log_L_2TAG_PACKET_4_0_2_eq, fast_log.log_B1_5_eq]
  · set_option maxRecDepth 8000 in
    simp only [
        ↓reduceIte, Nat.mod_mod, ↓fast_log.log_B1_5_1_sem,
        ↓fast_log.log_L_2TAG_PACKET_4_0_2_1_sem, ↓fast_log.log_L_2TAG_PACKET_5_0_2_2_sem,
        ↓fast_log.log_L_2TAG_PACKET_5_0_2_1_sem, ↓fast_log.log_L_2TAG_PACKET_2_0_2_1_sem,
        ↓fast_log.log_L_2TAG_PACKET_0_0_2_1_sem, ↓fast_log.log_start_1_sem,
        ↓fast_log.log_entry_1_sem, ↓Machine.get_setx, ↓Machine.get_setg,
        ↓Machine.get_setstk, ↓Machine.get_enter, ↓Machine.get_setFlags,
        ↓Machine.trace_set, ↓Machine.get_ite, ↓Machine.trace_ite, ↓Machine.obs_eq_get,
        ↓Machine.flags_get, ↓Machine.flags_trace, ↓sem_get_1, ↓sem_get_2, ↓sem_get_3,
        ↓sem_get_4, ↓sem_trace_1, ↓sem_trace_2, ↓sem_trace_3, ↓sem_trace_4, ↓load_const,
        cc_iff, ea, and_imm, and_imm_left, ilog2_lit, or_eq_zero, or_mod32, or_lt_2p31,
        Nat.mod_mod, Nat.zero_or, Nat.or_zero, Nat.sub_zero, Nat.add_mod_right, lane_eq,
        Machine.io_eq_get, Nat.xor_self, Loc.x.injEq, Loc.g.injEq, Loc.m.injEq,
        Bool.toNat_eq_zero, Bool.toNat_eq_one, Nat.reducePow, Nat.reduceMul,
        Nat.reduceMod, Nat.reduceAdd, Nat.reduceSub, Nat.reduceDiv, Nat.reduceEqDiff,
        Nat.reduceLTLE, Nat.reduceLeDiff, Nat.reduceLT, Nat.reduceGT, Nat.reduceOr,
        Nat.reduceXor, reduceCtorEq, Bool.not_eq_true', Bool.not_eq_true,
        decide_eq_true_eq, decide_eq_false_iff_not, Bool.and_eq_true, Bool.or_eq_true,
        bne_iff_ne, beq_iff_eq, ne_eq, Bool.not_eq_false', Bool.not_eq_false, decide_not,
        not_not, Bool.decide_eq_true, Bool.false_eq_true, Bool.true_eq_false,
        not_false_eq_true, not_true_eq_false, and_true, true_and, and_false, false_and,
        or_true, true_or, or_false, false_or, not_true, not_false_iff, iff_self, true_iff,
        iff_true, false_iff, iff_false, ite_self, decide_eq_decide, decide_False,
        decide_True, Bool.not_true, Bool.not_false]
    rw [f64Add_of_isNaN _ _ hn]
    have := f64Quiet_lt (s.get (.x xmm0) % 18446744073709551616) (by omega)
    all_goals omega
  · set_option maxRecDepth 8000 in
    simp only [
        ↓reduceIte, ↓fast_log.log_L_2TAG_PACKET_5_0_2_2_sem,
        ↓fast_log.log_L_2TAG_PACKET_5_0_2_1_sem, ↓fast_log.log_L_2TAG_PACKET_2_0_2_1_sem,
        ↓fast_log.log_L_2TAG_PACKET_0_0_2_1_sem, ↓fast_log.log_start_1_sem,
        ↓fast_log.log_entry_1_sem, ↓Machine.get_setx, ↓Machine.get_setg,
        ↓Machine.get_setstk, ↓Machine.get_enter, ↓Machine.get_setFlags,
        ↓Machine.trace_set, ↓Machine.get_ite, ↓Machine.trace_ite, ↓Machine.obs_eq_get,
        ↓Machine.flags_get, ↓Machine.flags_trace, ↓sem_get_1, ↓sem_get_2, ↓sem_get_3,
        ↓sem_get_4, ↓sem_trace_1, ↓sem_trace_2, ↓sem_trace_3, ↓sem_trace_4, ↓load_const,
        cc_iff, ea, and_imm, and_imm_left, ilog2_lit, or_eq_zero, or_mod32, or_lt_2p31,
        Nat.mod_mod, Nat.zero_or, Nat.or_zero, Nat.sub_zero, Nat.add_mod_right, lane_eq,
        Machine.io_eq_get, Nat.xor_self, Loc.x.injEq, Loc.g.injEq, Loc.m.injEq,
        Bool.toNat_eq_zero, Bool.toNat_eq_one, Nat.reducePow, Nat.reduceMul,
        Nat.reduceMod, Nat.reduceAdd, Nat.reduceSub, Nat.reduceDiv, Nat.reduceEqDiff,
        Nat.reduceLTLE, Nat.reduceLeDiff, Nat.reduceLT, Nat.reduceGT, Nat.reduceOr,
        Nat.reduceXor, reduceCtorEq, Bool.not_eq_true', Bool.not_eq_true,
        decide_eq_true_eq, decide_eq_false_iff_not, Bool.and_eq_true, Bool.or_eq_true,
        bne_iff_ne, beq_iff_eq, ne_eq, Bool.not_eq_false', Bool.not_eq_false, decide_not,
        not_not, Bool.decide_eq_true, Bool.false_eq_true, Bool.true_eq_false,
        not_false_eq_true, not_true_eq_false, and_true, true_and, and_false, false_and,
        or_true, true_or, or_false, false_or, not_true, not_false_iff, iff_self, true_iff,
        iff_true, false_iff, iff_false, ite_self, decide_eq_decide, decide_False,
        decide_True, Bool.not_true, Bool.not_false]
    all_goals omega
  · set_option maxRecDepth 8000 in
    simp only [
        ↓reduceIte, ↓fast_log.log_L_2TAG_PACKET_5_0_2_1_sem,
        ↓fast_log.log_L_2TAG_PACKET_2_0_2_1_sem, ↓fast_log.log_L_2TAG_PACKET_0_0_2_1_sem,
        ↓fast_log.log_start_1_sem, ↓fast_log.log_entry_1_sem, ↓Machine.get_setx,
        ↓Machine.get_setg, ↓Machine.get_setstk, ↓Machine.get_enter, ↓Machine.get_setFlags,
        ↓Machine.trace_set, ↓Machine.get_ite, ↓Machine.trace_ite, ↓Machine.obs_eq_get,
        ↓Machine.flags_get, ↓Machine.flags_trace, ↓sem_get_1, ↓sem_get_2, ↓sem_get_3,
        ↓sem_get_4, ↓sem_trace_1, ↓sem_trace_2, ↓sem_trace_3, ↓sem_trace_4, ↓load_const,
        cc_iff, ea, and_imm, and_imm_left, ilog2_lit, or_eq_zero, or_mod32, or_lt_2p31,
        Nat.mod_mod, Nat.zero_or, Nat.or_zero, Nat.sub_zero, Nat.add_mod_right, lane_eq,
        Machine.io_eq_get, Nat.xor_self, Loc.x.injEq, Loc.g.injEq, Loc.m.injEq,
        Bool.toNat_eq_zero, Bool.toNat_eq_one, Nat.reducePow, Nat.reduceMul,
        Nat.reduceMod, Nat.reduceAdd, Nat.reduceSub, Nat.reduceDiv, Nat.reduceEqDiff,
        Nat.reduceLTLE, Nat.reduceLeDiff, Nat.reduceLT, Nat.reduceGT, Nat.reduceOr,
        Nat.reduceXor, reduceCtorEq, Bool.not_eq_true', Bool.not_eq_true,
        decide_eq_true_eq, decide_eq_false_iff_not, Bool.and_eq_true, Bool.or_eq_true,
        bne_iff_ne, beq_iff_eq, ne_eq, Bool.not_eq_false', Bool.not_eq_false, decide_not,
        not_not, Bool.decide_eq_true, Bool.false_eq_true, Bool.true_eq_false,
        not_false_eq_true, not_true_eq_false, and_true, true_and, and_false, false_and,
        or_true, true_or, or_false, false_or, not_true, not_false_iff, iff_self, true_iff,
        iff_true, false_iff, iff_false, ite_self, decide_eq_decide, decide_False,
        decide_True, Bool.not_true, Bool.not_false]
    all_goals omega
  · set_option maxRecDepth 8000 in
    simp only [
        ↓reduceIte, ↓fast_log.log_L_2TAG_PACKET_2_0_2_1_sem,
        ↓fast_log.log_L_2TAG_PACKET_0_0_2_1_sem, ↓fast_log.log_start_1_sem,
        ↓fast_log.log_entry_1_sem, ↓Machine.get_setx, ↓Machine.get_setg,
        ↓Machine.get_setstk, ↓Machine.get_enter, ↓Machine.get_setFlags,
        ↓Machine.trace_set, ↓Machine.get_ite, ↓Machine.trace_ite, ↓Machine.obs_eq_get,
        ↓Machine.flags_get, ↓Machine.flags_trace, ↓sem_get_1, ↓sem_get_2, ↓sem_get_3,
        ↓sem_get_4, ↓sem_trace_1, ↓sem_trace_2, ↓sem_trace_3, ↓sem_trace_4, ↓load_const,
        cc_iff, ea, and_imm, and_imm_left, ilog2_lit, or_eq_zero, or_mod32, or_lt_2p31,
        Nat.mod_mod, Nat.zero_or, Nat.or_zero, Nat.sub_zero, Nat.add_mod_right, lane_eq,
        Machine.io_eq_get, Nat.xor_self, Loc.x.injEq, Loc.g.injEq, Loc.m.injEq,
        Bool.toNat_eq_zero, Bool.toNat_eq_one, Nat.reducePow, Nat.reduceMul,
        Nat.reduceMod, Nat.reduceAdd, Nat.reduceSub, Nat.reduceDiv, Nat.reduceEqDiff,
        Nat.reduceLTLE, Nat.reduceLeDiff, Nat.reduceLT, Nat.reduceGT, Nat.reduceOr,
        Nat.reduceXor, reduceCtorEq, Bool.not_eq_true', Bool.not_eq_true,
        decide_eq_true_eq, decide_eq_false_iff_not, Bool.and_eq_true, Bool.or_eq_true,
        bne_iff_ne, beq_iff_eq, ne_eq, Bool.not_eq_false', Bool.not_eq_false, decide_not,
        not_not, Bool.decide_eq_true, Bool.false_eq_true, Bool.true_eq_false,
        not_false_eq_true, not_true_eq_false, and_true, true_and, and_false, false_and,
        or_true, true_or, or_false, false_or, not_true, not_false_iff, iff_self, true_iff,
        iff_true, false_iff, iff_false, ite_self, decide_eq_decide, decide_False,
        decide_True, Bool.not_true, Bool.not_false]
    all_goals omega
  · set_option maxRecDepth 8000 in
    simp only [
        ↓reduceIte, ↓fast_log.log_L_2TAG_PACKET_0_0_2_1_sem, ↓fast_log.log_start_1_sem,
        ↓fast_log.log_entry_1_sem, ↓Machine.get_setx, ↓Machine.get_setg,
        ↓Machine.get_setstk, ↓Machine.get_enter, ↓Machine.get_setFlags,
        ↓Machine.trace_set, ↓Machine.get_ite, ↓Machine.trace_ite, ↓Machine.obs_eq_get,
        ↓Machine.flags_get, ↓Machine.flags_trace, ↓sem_get_1, ↓sem_get_2, ↓sem_get_3,
        ↓sem_get_4, ↓sem_trace_1, ↓sem_trace_2, ↓sem_trace_3, ↓sem_trace_4, ↓load_const,
        cc_iff, ea, and_imm, and_imm_left, ilog2_lit, or_eq_zero, or_mod32, or_lt_2p31,
        Nat.mod_mod, Nat.zero_or, Nat.or_zero, Nat.sub_zero, Nat.add_mod_right, lane_eq,
        Machine.io_eq_get, Nat.xor_self, Loc.x.injEq, Loc.g.injEq, Loc.m.injEq,
        Bool.toNat_eq_zero, Bool.toNat_eq_one, Nat.reducePow, Nat.reduceMul,
        Nat.reduceMod, Nat.reduceAdd, Nat.reduceSub, Nat.reduceDiv, Nat.reduceEqDiff,
        Nat.reduceLTLE, Nat.reduceLeDiff, Nat.reduceLT, Nat.reduceGT, Nat.reduceOr,
        Nat.reduceXor, reduceCtorEq, Bool.not_eq_true', Bool.not_eq_true,
        decide_eq_true_eq, decide_eq_false_iff_not, Bool.and_eq_true, Bool.or_eq_true,
        bne_iff_ne, beq_iff_eq, ne_eq, Bool.not_eq_false', Bool.not_eq_false, decide_not,
        not_not, Bool.decide_eq_true, Bool.false_eq_true, Bool.true_eq_false,
        not_false_eq_true, not_true_eq_false, and_true, true_and, and_false, false_and,
        or_true, true_or, or_false, false_or, not_true, not_false_iff, iff_self, true_iff,
        iff_true, false_iff, iff_false, ite_self, decide_eq_decide, decide_False,
        decide_True, Bool.not_true, Bool.not_false]
    all_goals omega
  · set_option maxRecDepth 8000 in
    simp only [
        ↓reduceIte, ↓fast_log.log_start_1_sem, ↓fast_log.log_entry_1_sem,
        ↓Machine.get_setx, ↓Machine.get_setg, ↓Machine.get_setstk, ↓Machine.get_enter,
        ↓Machine.get_setFlags, ↓Machine.trace_set, ↓Machine.get_ite, ↓Machine.trace_ite,
        ↓Machine.obs_eq_get, ↓Machine.flags_get, ↓Machine.flags_trace, ↓sem_get_1,
        ↓sem_get_2, ↓sem_get_3, ↓sem_get_4, ↓sem_trace_1, ↓sem_trace_2, ↓sem_trace_3,
        ↓sem_trace_4, ↓load_const, cc_iff, ea, and_imm, and_imm_left, ilog2_lit,
        or_eq_zero, or_mod32, or_lt_2p31, Nat.mod_mod, Nat.zero_or, Nat.or_zero,
        Nat.sub_zero, Nat.add_mod_right, lane_eq, Machine.io_eq_get, Nat.xor_self,
        Loc.x.injEq, Loc.g.injEq, Loc.m.injEq, Bool.toNat_eq_zero, Bool.toNat_eq_one,
        Nat.reducePow, Nat.reduceMul, Nat.reduceMod, Nat.reduceAdd, Nat.reduceSub,
        Nat.reduceDiv, Nat.reduceEqDiff, Nat.reduceLTLE, Nat.reduceLeDiff, Nat.reduceLT,
        Nat.reduceGT, Nat.reduceOr, Nat.reduceXor, reduceCtorEq, Bool.not_eq_true',
        Bool.not_eq_true, decide_eq_true_eq, decide_eq_false_iff_not, Bool.and_eq_true,
        Bool.or_eq_true, bne_iff_ne, beq_iff_eq, ne_eq, Bool.not_eq_false',
        Bool.not_eq_false, decide_not, not_not, Bool.decide_eq_true, Bool.false_eq_true,
        Bool.true_eq_false, not_false_eq_true, not_true_eq_false, and_true, true_and,
        and_false, false_and, or_true, true_or, or_false, false_or, not_true,
        not_false_iff, iff_self, true_iff, iff_true, false_iff, iff_false, ite_self,
        decide_eq_decide, decide_False, decide_True, Bool.not_true, Bool.not_false]
    all_goals omega

/-- C11: `fast_log` returns `+Inf` bit-exactly at `+Inf`, and a NaN (the quieted argument) at
every NaN argument of either sign and any payload; in both cases the value returned is the sum
`x + x`. -/
theorem fast_log_inf_nan (cpu : Cpu) (s : Machine)
    (h : s.arg0 = 0x7FF0000000000000 ∨ f64IsNaN s.arg0 = true) :
    (fast_log cpu s).result = f64Add s.arg0 s.arg0 ∧
    (s.arg0 = 0x7FF0000000000000 → (fast_log cpu s).result = 0x7FF0000000000000) ∧
    (f64IsNaN s.arg0 = true → f64IsNaN (fast_log cpu s).result = true) := by
  have hlt := arg0_lt s
  have hnan : f64IsNaN s.arg0 = true → (fast_log cpu s).result = f64Quiet s.arg0 := by
    intro hn
    have hn2 := hn
    simp only [f64IsNaN, f64Exp, f64Man, Nat.reducePow, decide_eq_true_eq] at hn2
    rcases Nat.lt_or_ge s.arg0 0x8000000000000000 with h1 | h1
    · exact fast_log_pos_nan_run cpu s (by omega) h1
    · by_cases h2 : s.arg0 / 2 ^ 32 % 2 ^ 20 = 0
      · exact fast_log_neg_nan_lo_run cpu s (by omega) h2
      · exact fast_log_neg_nan_hi_run cpu s (by omega) h2
  refine ⟨?_, fun hi => fast_log_pos_inf_run cpu s hi, fun hn => ?_⟩
  · rcases h with h | h
    · rw [fast_log_pos_inf_run cpu s h, h, f64Add_inf_inf]
    · rw [hnan h, f64Add_of_isNaN _ _ h]
  · rw [hnan hn]
    exact f64Quiet_isNaN _ hn

theorem fast_log_inf_nan_witness :
    ((Machine.init 0xFFF0000000000001 0).arg0 = 0x7FF0000000000000 ∨
      f64IsNaN (Machine.init 0xFFF0000000000001 0).arg0 = true) ∧
    (fast_log Cpu.sample (Machine.init 0xFFF0000000000001 0)).result = 0xFFF8000000000001 :=
  ⟨by decide,
    (fast_log_inf_nan Cpu.sample (Machine.init 0xFFF0000000000001 0) (by decide)).1.trans
      (by decide)⟩

end MacroAssembler

namespace MacroAssembler
open XReg GReg Machine

/-! ### `fast_log` at `1.0` -/

/-- An estimate of `1 / 1.0` with relative error at most `1.5 * 2^-12` lies between
`0x3F7FE800` and `0x3F800C00`. -/
theorem rcpWithin_one (f : Nat) (hf : f < 4294967296)
    (h : rcpWithin 0x3F800000 f = true) : 0x3F7FE800 ≤ f ∧ f ≤ 0x3F800C00 := by
  simp only [rcpWithin, decide_eq_true_eq, f32Mag] at h
  obtain ⟨hs, he, h3, h4⟩ := h
  have hEa : f32E 0x3F800000 = 127 := by decide
  have hSa : f32Sig 0x3F800000 = 2 ^ 23 := by decide
  rw [hEa, hSa] at h3 h4
  generalize hP : f32Sig f * 2 ^ f32E f = P at h3 h4
  simp only [Nat.reducePow, Nat.reduceMul, Nat.reduceSub, Nat.reduceAdd] at h3 h4
  simp only [f32Sign, f32Exp, Nat.reducePow] at hs he
  have hmf : f32Man f < 2 ^ 23 := Nat.mod_lt _ (by decide)
  have hf2 : f = f / 8388608 % 256 * 8388608 + f32Man f := by
    simp only [f32Man, Nat.reducePow]
    omega
  by_cases c1 : f / 8388608 % 256 ≤ 124
  · exfalso
    have hE : f32E f ≤ 124 := by
      simp only [f32E, f32Exp, Nat.reducePow]
      split_ifs <;> omega
    have hS : f32Sig f < 2 ^ 24 := by
      simp only [f32Sig]
      split_ifs <;> omega
    have := Nat.mul_lt_mul_of_lt_of_le hS (Nat.pow_le_pow_right (by decide : 0 < 2) hE)
      (Nat.two_pow_pos 124)
    rw [hP] at this
    simp only [Nat.reducePow, Nat.reduceMul] at this
    omega
  by_cases c2 : 128 ≤ f / 8388608 % 256
  · exfalso
    have hE : 128 ≤ f32E f := by
      simp only [f32E, f32Exp, Nat.reducePow]
      split_ifs <;> omega
    have hS : 2 ^ 23 ≤ f32Sig f := by
      simp only [f32Sig, f32Exp, Nat.reducePow]
      rw [if_neg (by omega)]
      omega
    have := Nat.mul_le_mul hS (Nat.pow_le_pow_right (by decide : 0 < 2) hE)
    rw [hP] at this
    simp only [Nat.reducePow, Nat.reduceMul] at this
    omega
  have hS : f32Sig f = 8388608 + f32Man f := by
    simp only [f32Sig, f32Exp, Nat.reducePow]
    rw [if_neg (by omega)]
  have hE : f32E f = f / 8388608 % 256 := by
    simp only [f32E, f32Exp, Nat.reducePow]
    rw [if_neg (by omega)]
  rw [hS, hE] at hP
  simp only [Nat.reducePow] at hmf
  have c3 : f / 8388608 % 256 = 125 ∨ f / 8388608 % 256 = 126 ∨ f / 8388608 % 256 = 127 := by
    omega
  rcases c3 with c | c | c <;> rw [c] at hP hf2 <;>
    simp only [Nat.reducePow, Nat.reduceMul] at hP hf2 <;> omega

set_option maxRecDepth 100000 in
theorem fast_log_L1_one (cpu : Cpu) (t : Machine) (hs : cpu.supports_sse3 = true)
    (h0 : (t.get (.x xmm0) % 4294967296 + 32768) % 4294967296 / 65536 = 16256)
    (h0' : t.get (.x xmm0) / 4294967296 % 8 = 0)
    (h1 : t.get (.x xmm1) % 18446744073709551616 = 0)
    (h2 : t.get (.x xmm2) = 0x3ff0000000000000)
    (h3 : t.get (.x xmm3) = 0x77f0000000000000)
    (h4 : t.get (.x xmm4) = 32768)
    (h5 : t.get (.x xmm5) = 0xffffe00000000000)
    (h6 : t.get (.x xmm6) = 0xffffe00000000000)
    (ha : t.get (.g eax) = 16352)
    (hc : t.get (.g ecx) = 16352)
    (ht : t.get (.g tmp2) = Tbl.L_tbl.addr) :
    (fast_log.L_2TAG_PACKET_1_0_2 cpu t).result = 0 := by
  have e1 : ((t.get (.x xmm0) % 4294967296 + 32768) % 4294967296 +
      4294967296 * (t.get (.x xmm0) / 4294967296 % 4294967296) +
      18446744073709551616 * (t.get (.x xmm0) / 18446744073709551616 % 4294967296) +
      79228162514264337593543950336 *
        (t.get (.x xmm0) / 79228162514264337593543950336 % 4294967296)) % 4294967296
        / 65536 % 256 * 65536 % 4294967296 / 4096 = 2048 := by omega
  have e2 : ((((t.get (.x xmm0) % 4294967296 + 32768) % 4294967296 +
      4294967296 * (t.get (.x xmm0) / 4294967296 % 4294967296) +
      18446744073709551616 * (t.get (.x xmm0) / 18446744073709551616 % 4294967296) +
      79228162514264337593543950336 *
        (t.get (.x xmm0) / 79228162514264337593543950336 % 4294967296)) %
        18446744073709551616 * 536870912 % 18446744073709551616 +
      18446744073709551616 * (((t.get (.x xmm0) % 4294967296 + 32768) % 4294967296 +
      4294967296 * (t.get (.x xmm0) / 4294967296 % 4294967296) +
      18446744073709551616 * (t.get (.x xmm0) / 18446744073709551616 % 4294967296) +
      79228162514264337593543950336 *
        (t.get (.x xmm0) / 79228162514264337593543950336 % 4294967296)) /
        18446744073709551616 % 18446744073709551616 * 536870912 % 18446744073709551616))
        &&& 18446708889337462784) % 18446744073709551616 = 571957152676052992 := by
    have em : (18446708889337462784 : Nat) = (2 ^ 19 - 1) * 2 ^ 45 := by decide
    rw [em, and_mask]
    simp only [Nat.reducePow]
    omega
  have e3 : (18446708889337462784 &&& (t.get (.x xmm1) ||| 8642407684923981824)) %
      18446744073709551616 = 8642407684923981824 := by
    have := and_mod_pow 18446708889337462784 (t.get (.x xmm1) ||| 8642407684923981824) 64
    simp only [Nat.reducePow] at this
    rw [this, or_mod64, h1]
    decide
  rw [fast_log.log_L_2TAG_PACKET_1_0_2_eq, fast_log.log_B1_5_eq]
  set_option maxRecDepth 8000 in
  simp only [
      ↓reduceIte, ↓fast_log.log_B1_5_1_sem, ↓fast_log.log_L_2TAG_PACKET_1_0_2_1_sem, hs, h1,
      h2, h3, h4, h5, h6, ha, hc, ht, Nat.div_one, Nat.add_zero, Nat.mul_one,
      Nat.add_mul_mod_self_left, Nat.zero_add, or_mod64, e1, e2, e3, ↓Machine.get_setx,
      ↓Machine.get_setg, ↓Machine.get_setstk, ↓Machine.get_enter, ↓Machine.get_setFlags,
      ↓Machine.trace_set, ↓Machine.get_ite, ↓Machine.trace_ite, ↓Machine.obs_eq_get,
      ↓Machine.flags_get, ↓Machine.flags_trace, ↓sem_get_1, ↓sem_get_2, ↓sem_get_3,
      ↓sem_get_4, ↓sem_trace_1, ↓sem_trace_2, ↓sem_trace_3, ↓sem_trace_4, ↓load_const,
      cc_iff, ea, and_imm, and_imm_left, ilog2_lit, or_eq_zero, or_mod32, or_lt_2p31,
      Nat.mod_mod, Nat.zero_or, Nat.or_zero, Nat.sub_zero, Nat.add_mod_right, lane_eq,
      Machine.io_eq_get, Nat.xor_self, Loc.x.injEq, Loc.g.injEq, Loc.m.injEq,
      Bool.toNat_eq_zero, Bool.toNat_eq_one, Nat.reducePow, Nat.reduceMul, Nat.reduceMod,
      Nat.reduceAdd, Nat.reduceSub, Nat.reduceDiv, Nat.reduceEqDiff, Nat.reduceLTLE,
      Nat.reduceLeDiff, Nat.reduceLT, Nat.reduceGT, Nat.reduceOr, Nat.reduceXor,
      reduceCtorEq, Bool.not_eq_true', Bool.not_eq_true, decide_eq_true_eq,
      decide_eq_false_iff_not, Bool.and_eq_true, Bool.or_eq_true, bne_iff_ne, beq_iff_eq,
      ne_eq, Bool.not_eq_false', Bool.not_eq_false, decide_not, not_not,
      Bool.decide_eq_true, Bool.false_eq_true, Bool.true_eq_false, not_false_eq_true,
      not_true_eq_false, and_true, true_and, and_false, false_and, or_true, true_or,
      or_false, false_or, not_true, not_false_iff, iff_self, true_iff, iff_true, false_iff,
      iff_false, ite_self, decide_eq_decide, decide_False, decide_True, Bool.not_true,
      Bool.not_false]
  decide!

set_option maxRecDepth 100000 in
theorem fast_log_L1_one_sse2 (cpu : Cpu) (t : Machine) (hs : cpu.supports_sse3 = false)
    (h0 : (t.get (.x xmm0) % 4294967296 + 32768) % 4294967296 / 65536 = 16256)
    (h0' : t.get (.x xmm0) / 4294967296 % 8 = 0)
    (h1 : t.get (.x xmm1) % 18446744073709551616 = 0)
    (h2 : t.get (.x xmm2) = 0x3ff0000000000000)
    (h3 : t.get (.x xmm3) = 0x77f0000000000000)
    (h4 : t.get (.x xmm4) = 32768)
    (h5 : t.get (.x xmm5) = 0xffffe00000000000)
    (h6 : t.get (.x xmm6) = 0xffffe00000000000)
    (ha : t.get (.g eax) = 16352)
    (hc : t.get (.g ecx) = 16352)
    (ht : t.get (.g tmp2) = Tbl.L_tbl.addr) :
    (fast_log.L_2TAG_PACKET_1_0_2 cpu t).result = 0 := by
  have e1 : ((t.get (.x xmm0) % 4294967296 + 32768) % 4294967296 +
      4294967296 * (t.get (.x xmm0) / 4294967296 % 4294967296) +
      18446744073709551616 * (t.get (.x xmm0) / 18446744073709551616 % 4294967296) +
      79228162514264337593543950336 *
        (t.get (.x xmm0) / 79228162514264337593543950336 % 4294967296)) % 4294967296
        / 65536 % 256 * 65536 % 4294967296 / 4096 = 2048 := by omega
  have e2 : ((((t.get (.x xmm0) % 4294967296 + 32768) % 4294967296 +
      4294967296 * (t.get (.x xmm0) / 4294967296 % 4294967296) +
      18446744073709551616 * (t.get (.x xmm0) / 18446744073709551616 % 4294967296) +
      79228162514264337593543950336 *
        (t.get (.x xmm0) / 79228162514264337593543950336 % 4294967296)) %
        18446744073709551616 * 536870912 % 18446744073709551616 +
      18446744073709551616 * (((t.get (.x xmm0) % 4294967296 + 32768) % 4294967296 +
      4294967296 * (t.get (.x xmm0) / 4294967296 % 4294967296) +
      18446744073709551616 * (t.get (.x xmm0) / 18446744073709551616 % 4294967296) +
      79228162514264337593543950336 *
        (t.get (.x xmm0) / 79228162514264337593543950336 % 4294967296)) /
        18446744073709551616 % 18446744073709551616 * 536870912 % 18446744073709551616))
        &&& 18446708889337462784) % 18446744073709551616 = 571957152676052992 := by
    have em : (18446708889337462784 : Nat) = (2 ^ 19 - 1) * 2 ^ 45 := by decide
    rw [em, and_mask]
    simp only [Nat.reducePow]
    omega
  have e3 : (18446708889337462784 &&& (t.get (.x xmm1) ||| 8642407684923981824)) %
      18446744073709551616 = 8642407684923981824 := by
    have := and_mod_pow 18446708889337462784 (t.get (.x xmm1) ||| 8642407684923981824) 64
    simp only [Nat.reducePow] at this
    rw [this, or_mod64, h1]
    decide
  rw [fast_log.log_L_2TAG_PACKET_1_0_2_eq, fast_log.log_B1_5_eq]
  set_option maxRecDepth 8000 in
  simp only [
      ↓reduceIte, ↓fast_log.log_B1_5_1_sem, ↓fast_log.log_L_2TAG_PACKET_1_0_2_1_sem, hs, h1,
      h2, h3, h4, h5, h6, ha, hc, ht, Nat.div_one, Nat.add_zero, Nat.mul_one,
      Nat.add_mul_mod_self_left, Nat.zero_add, or_mod64, e1, e2, e3, ↓Machine.get_setx,
      ↓Machine.get_setg, ↓Machine.get_setstk, ↓Machine.get_enter, ↓Machine.get_setFlags,
      ↓Machine.trace_set, ↓Machine.get_ite, ↓Machine.trace_ite, ↓Machine.obs_eq_get,
      ↓Machine.flags_get, ↓Machine.flags_trace, ↓sem_get_1, ↓sem_get_2, ↓sem_get_3,
      ↓sem_get_4, ↓sem_trace_1, ↓sem_trace_2, ↓sem_trace_3, ↓sem_trace_4, ↓load_const,
      cc_iff, ea, and_imm, and_imm_left, ilog2_lit, or_eq_zero, or_mod32, or_lt_2p31,
      Nat.mod_mod, Nat.zero_or, Nat.or_zero, Nat.sub_zero, Nat.add_mod_right, lane_eq,
      Machine.io_eq_get, Nat.xor_self, Loc.x.injEq, Loc.g.injEq, Loc.m.injEq,
      Bool.toNat_eq_zero, Bool.toNat_eq_one, Nat.reducePow, Nat.reduceMul, Nat.reduceMod,
      Nat.reduceAdd, Nat.reduceSub, Nat.reduceDiv, Nat.reduceEqDiff, Nat.reduceLTLE,
      Nat.reduceLeDiff, Nat.reduceLT, Nat.reduceGT, Nat.reduceOr, Nat.reduceXor,
      reduceCtorEq, Bool.not_eq_true', Bool.not_eq_true, decide_eq_true_eq,
      decide_eq_false_iff_not, Bool.and_eq_true, Bool.or_eq_true, bne_iff_ne, beq_iff_eq,
      ne_eq, Bool.not_eq_false', Bool.not_eq_false, decide_not, not_not,
      Bool.decide_eq_true, Bool.false_eq_true, Bool.true_eq_false, not_false_eq_true,
      not_true_eq_false, and_true, true_and, and_false, false_and, or_true, true_or,
      or_false, false_or, not_true, not_false_iff, iff_self, true_iff, iff_true, false_iff,
      iff_false, ite_self, decide_eq_decide, decide_False, decide_True, Bool.not_true,
      Bool.not_false]
  decide!

/-- The run of `fast_log` at `1.0` up to the table lookup. -/
theorem fast_log_one_prefix (cpu : Cpu) (s : Machine) (h : s.arg0 = 0x3FF0000000000000) :
    ∃ t, fast_log cpu s = fast_log.L_2TAG_PACKET_1_0_2 cpu t ∧
      t.get (.x xmm0) % 4294967296 = cpu.rcp 0x3F800000 % 4294967296 ∧
      t.get (.x xmm0) / 4294967296 % 4294967296 = cpu.rcp 1 % 4294967296 ∧
      t.get (.x xmm1) % 18446744073709551616 = 0 ∧
      t.get (.x xmm2) = 0x3ff0000000000000 ∧
      t.get (.x xmm3) = 0x77f0000000000000 ∧
      t.get (.x xmm4) = 32768 ∧
      t.get (.x xmm5) = 0xffffe00000000000 ∧
      t.get (.x xmm6) = 0xffffe00000000000 ∧
      t.get (.g eax) = 16352 ∧
      t.get (.g ecx) = 16352 ∧
      t.get (.g tmp2) = Tbl.L_tbl.addr := by
  simp only [Machine.io_eq_get, Nat.reducePow] at h
  have h48 : s.get (.x xmm0) / 281474976710656 % 65536 = 16368 := by omega
  refine ⟨(fast_log.start_2 cpu (fast_log.start_1 cpu (fast_log.entry_1 cpu s))), ?_, ?_, ?_, ?_, ?_, ?_, ?_, ?_, ?_, ?_, ?_, ?_⟩
  rotate_left
  · set_option maxRecDepth 8000 in
    simp only [
        ↓reduceIte, ↓fast_log.log_start_2_sem, ↓fast_log.log_start_1_sem,
        ↓fast_log.log_entry_1_sem, h, h48, or_mod64, mkdw_one, mk128_one, mkdw_dw0,
        mk128_dw0, mkdw_dw1, mk128_dw1, mkqw_dw0, mkqw_dw1, Nat.mod_div_self,
        Nat.zero_add, ↓Machine.get_setx, ↓Machine.get_setg, ↓Machine.get_setstk,
        ↓Machine.get_enter, ↓Machine.get_setFlags, ↓Machine.trace_set, ↓Machine.get_ite,
        ↓Machine.trace_ite, ↓Machine.obs_eq_get, ↓Machine.flags_get, ↓Machine.flags_trace,
        ↓sem_get_1, ↓sem_get_2, ↓sem_get_3, ↓sem_get_4, ↓sem_trace_1, ↓sem_trace_2,
        ↓sem_trace_3, ↓sem_trace_4, ↓load_const, cc_iff, ea, and_imm, and_imm_left,
        ilog2_lit, or_eq_zero, or_mod32, or_lt_2p31, Nat.mod_mod, Nat.zero_or,
        Nat.or_zero, Nat.sub_zero, Nat.add_mod_right, lane_eq, Machine.io_eq_get,
        Nat.xor_self, Loc.x.injEq, Loc.g.injEq, Loc.m.injEq, Bool.toNat_eq_zero,
        Bool.toNat_eq_one, Nat.reducePow, Nat.reduceMul, Nat.reduceMod, Nat.reduceAdd,
        Nat.reduceSub, Nat.reduceDiv, Nat.reduceEqDiff, Nat.reduceLTLE, Nat.reduceLeDiff,
        Nat.reduceLT, Nat.reduceGT, Nat.reduceOr, Nat.reduceXor, reduceCtorEq,
        Bool.not_eq_true', Bool.not_eq_true, decide_eq_true_eq, decide_eq_false_iff_not,
        Bool.and_eq_true, Bool.or_eq_true, bne_iff_ne, beq_iff_eq, ne_eq,
        Bool.not_eq_false', Bool.not_eq_false, decide_not, not_not, Bool.decide_eq_true,
        Bool.false_eq_true, Bool.true_eq_false, not_false_eq_true, not_true_eq_false,
        and_true, true_and, and_false, false_and, or_true, true_or, or_false, false_or,
        not_true, not_false_iff, iff_self, true_iff, iff_true, false_iff, iff_false,
        ite_self, decide_eq_decide, decide_False, decide_True, Bool.not_true,
        Bool.not_false]
  · set_option maxRecDepth 8000 in
    simp only [
        ↓reduceIte, ↓fast_log.log_start_2_sem, ↓fast_log.log_start_1_sem,
        ↓fast_log.log_entry_1_sem, h, h48, or_mod64, mkdw_one, mk128_one, mkdw_dw0,
        mk128_dw0, mkdw_dw1, mk128_dw1, mkqw_dw0, mkqw_dw1, Nat.mod_div_self,
        Nat.zero_add, ↓Machine.get_setx, ↓Machine.get_setg, ↓Machine.get_setstk,
        ↓Machine.get_enter, ↓Machine.get_setFlags, ↓Machine.trace_set, ↓Machine.get_ite,
        ↓Machine.trace_ite, ↓Machine.obs_eq_get, ↓Machine.flags_get, ↓Machine.flags_trace,
        ↓sem_get_1, ↓sem_get_2, ↓sem_get_3, ↓sem_get_4, ↓sem_trace_1, ↓sem_trace_2,
        ↓sem_trace_3, ↓sem_trace_4, ↓load_const, cc_iff, ea, and_imm, and_imm_left,
        ilog2_lit, or_eq_zero, or_mod32, or_lt_2p31, Nat.mod_mod, Nat.zero_or,
        Nat.or_zero, Nat.sub_zero, Nat.add_mod_right, lane_eq, Machine.io_eq_get,
        Nat.xor_self, Loc.x.injEq, Loc.g.injEq, Loc.m.injEq, Bool.toNat_eq_zero,
        Bool.toNat_eq_one, Nat.reducePow, Nat.reduceMul, Nat.reduceMod, Nat.reduceAdd,
        Nat.reduceSub, Nat.reduceDiv, Nat.reduceEqDiff, Nat.reduceLTLE, Nat.reduceLeDiff,
        Nat.reduceLT, Nat.reduceGT, Nat.reduceOr, Nat.reduceXor, reduceCtorEq,
        Bool.not_eq_true', Bool.not_eq_true, decide_eq_true_eq, decide_eq_false_iff_not,
        Bool.and_eq_true, Bool.or_eq_true, bne_iff_ne, beq_iff_eq, ne_eq,
        Bool.not_eq_false', Bool.not_eq_false, decide_not, not_not, Bool.decide_eq_true,
        Bool.false_eq_true, Bool.true_eq_false, not_false_eq_true, not_true_eq_false,
        and_true, true_and, and_false, false_and, or_true, true_or, or_false, false_or,
        not_true, not_false_iff, iff_self, true_iff, iff_true, false_iff, iff_false,
        ite_self, decide_eq_decide, decide_False, decide_True, Bool.not_true,
        Bool.not_false]
    all_goals omega
  · set_option maxRecDepth 8000 in
    simp only [
        ↓reduceIte, ↓fast_log.log_start_2_sem, ↓fast_log.log_start_1_sem,
        ↓fast_log.log_entry_1_sem, h, h48, or_mod64, ↓Machine.get_setx, ↓Machine.get_setg,
        ↓Machine.get_setstk, ↓Machine.get_enter, ↓Machine.get_setFlags,
        ↓Machine.trace_set, ↓Machine.get_ite, ↓Machine.trace_ite, ↓Machine.obs_eq_get,
        ↓Machine.flags_get, ↓Machine.flags_trace, ↓sem_get_1, ↓sem_get_2, ↓sem_get_3,
        ↓sem_get_4, ↓sem_trace_1, ↓sem_trace_2, ↓sem_trace_3, ↓sem_trace_4, ↓load_const,
        cc_iff, ea, and_imm, and_imm_left, ilog2_lit, or_eq_zero, or_mod32, or_lt_2p31,
        Nat.mod_mod, Nat.zero_or, Nat.or_zero, Nat.sub_zero, Nat.add_mod_right, lane_eq,
        Machine.io_eq_get, Nat.xor_self, Loc.x.injEq, Loc.g.injEq, Loc.m.injEq,
        Bool.toNat_eq_zero, Bool.toNat_eq_one, Nat.reducePow, Nat.reduceMul,
        Nat.reduceMod, Nat.reduceAdd, Nat.reduceSub, Nat.reduceDiv, Nat.reduceEqDiff,
        Nat.reduceLTLE, Nat.reduceLeDiff, Nat.reduceLT, Nat.reduceGT, Nat.reduceOr,
        Nat.reduceXor, reduceCtorEq, Bool.not_eq_true', Bool.not_eq_true,
        decide_eq_true_eq, decide_eq_false_iff_not, Bool.and_eq_true, Bool.or_eq_true,
        bne_iff_ne, beq_iff_eq, ne_eq, Bool.not_eq_false', Bool.not_eq_false, decide_not,
        not_not, Bool.decide_eq_true, Bool.false_eq_true, Bool.true_eq_false,
        not_false_eq_true, not_true_eq_false, and_true, true_and, and_false, false_and,
        or_true, true_or, or_false, false_or, not_true, not_false_iff, iff_self, true_iff,
        iff_true, false_iff, iff_false, ite_self, decide_eq_decide, decide_False,
        decide_True, Bool.not_true, Bool.not_false]
    all_goals omega
  · set_option maxRecDepth 8000 in
    simp only [
        ↓reduceIte, ↓fast_log.log_start_2_sem, ↓fast_log.log_start_1_sem,
        ↓fast_log.log_entry_1_sem, h, h48, ↓Machine.get_setx, ↓Machine.get_setg,
        ↓Machine.get_setstk, ↓Machine.get_enter, ↓Machine.get_setFlags,
        ↓Machine.trace_set, ↓Machine.get_ite, ↓Machine.trace_ite, ↓Machine.obs_eq_get,
        ↓Machine.flags_get, ↓Machine.flags_trace, ↓sem_get_1, ↓sem_get_2, ↓sem_get_3,
        ↓sem_get_4, ↓sem_trace_1, ↓sem_trace_2, ↓sem_trace_3, ↓sem_trace_4, ↓load_const,
        cc_iff, ea, and_imm, and_imm_left, ilog2_lit, or_eq_zero, or_mod32, or_lt_2p31,
        Nat.mod_mod, Nat.zero_or, Nat.or_zero, Nat.sub_zero, Nat.add_mod_right, lane_eq,
        Machine.io_eq_get, Nat.xor_self, Loc.x.injEq, Loc.g.injEq, Loc.m.injEq,
        Bool.toNat_eq_zero, Bool.toNat_eq_one, Nat.reducePow, Nat.reduceMul,
        Nat.reduceMod, Nat.reduceAdd, Nat.reduceSub, Nat.reduceDiv, Nat.reduceEqDiff,
        Nat.reduceLTLE, Nat.reduceLeDiff, Nat.reduceLT, Nat.reduceGT, Nat.reduceOr,
        Nat.reduceXor, reduceCtorEq, Bool.not_eq_true', Bool.not_eq_true,
        decide_eq_true_eq, decide_eq_false_iff_not, Bool.and_eq_true, Bool.or_eq_true,
        bne_iff_ne, beq_iff_eq, ne_eq, Bool.not_eq_false', Bool.not_eq_false, decide_not,
        not_not, Bool.decide_eq_true, Bool.false_eq_true, Bool.true_eq_false,
        not_false_eq_true, not_true_eq_false, and_true, true_and, and_false, false_and,
        or_true, true_or, or_false, false_or, not_true, not_false_iff, iff_self, true_iff,
        iff_true, false_iff, iff_false, ite_self, decide_eq_decide, decide_False,
        decide_True, Bool.not_true, Bool.not_false]
  · set_option maxRecDepth 8000 in
    simp only [
        ↓reduceIte, ↓fast_log.log_start_2_sem, ↓fast_log.log_start_1_sem,
        ↓fast_log.log_entry_1_sem, h, h48, ↓Machine.get_setx, ↓Machine.get_setg,
        ↓Machine.get_setstk, ↓Machine.get_enter, ↓Machine.get_setFlags,
        ↓Machine.trace_set, ↓Machine.get_ite, ↓Machine.trace_ite, ↓Machine.obs_eq_get,
        ↓Machine.flags_get, ↓Machine.flags_trace, ↓sem_get_1, ↓sem_get_2, ↓sem_get_3,
        ↓sem_get_4, ↓sem_trace_1, ↓sem_trace_2, ↓sem_trace_3, ↓sem_trace_4, ↓load_const,
        cc_iff, ea, and_imm, and_imm_left, ilog2_lit, or_eq_zero, or_mod32, or_lt_2p31,
        Nat.mod_mod, Nat.zero_or, Nat.or_zero, Nat.sub_zero, Nat.add_mod_right, lane_eq,
        Machine.io_eq_get, Nat.xor_self, Loc.x.injEq, Loc.g.injEq, Loc.m.injEq,
        Bool.toNat_eq_zero, Bool.toNat_eq_one, Nat.reducePow, Nat.reduceMul,
        Nat.reduceMod, Nat.reduceAdd, Nat.reduceSub, Nat.reduceDiv, Nat.reduceEqDiff,
        Nat.reduceLTLE, Nat.reduceLeDiff, Nat.reduceLT, Nat.reduceGT, Nat.reduceOr,
        Nat.reduceXor, reduceCtorEq, Bool.not_eq_true', Bool.not_eq_true,
        decide_eq_true_eq, decide_eq_false_iff_not, Bool.and_eq_true, Bool.or_eq_true,
        bne_iff_ne, beq_iff_eq, ne_eq, Bool.not_eq_false', Bool.not_eq_false, decide_not,
        not_not, Bool.decide_eq_true, Bool.false_eq_true, Bool.true_eq_false,
        not_false_eq_true, not_true_eq_false, and_true, true_and, and_false, false_and,
        or_true, true_or, or_false, false_or, not_true, not_false_iff, iff_self, true_iff,
        iff_true, false_iff, iff_false, ite_self, decide_eq_decide, decide_False,
        decide_True, Bool.not_true, Bool.not_false]
  · set_option maxRecDepth 8000 in
    simp only [
        ↓reduceIte, ↓fast_log.log_start_2_sem, ↓fast_log.log_start_1_sem,
        ↓fast_log.log_entry_1_sem, h, h48, ↓Machine.get_setx, ↓Machine.get_setg,
        ↓Machine.get_setstk, ↓Machine.get_enter, ↓Machine.get_setFlags,
        ↓Machine.trace_set, ↓Machine.get_ite, ↓Machine.trace_ite, ↓Machine.obs_eq_get,
        ↓Machine.flags_get, ↓Machine.flags_trace, ↓sem_get_1, ↓sem_get_2, ↓sem_get_3,
        ↓sem_get_4, ↓sem_trace_1, ↓sem_trace_2, ↓sem_trace_3, ↓sem_trace_4, ↓load_const,
        cc_iff, ea, and_imm, and_imm_left, ilog2_lit, or_eq_zero, or_mod32, or_lt_2p31,
        Nat.mod_mod, Nat.zero_or, Nat.or_zero, Nat.sub_zero, Nat.add_mod_right, lane_eq,
        Machine.io_eq_get, Nat.xor_self, Loc.x.injEq, Loc.g.injEq, Loc.m.injEq,
        Bool.toNat_eq_zero, Bool.toNat_eq_one, Nat.reducePow, Nat.reduceMul,
        Nat.reduceMod, Nat.reduceAdd, Nat.reduceSub, Nat.reduceDiv, Nat.reduceEqDiff,
        Nat.reduceLTLE, Nat.reduceLeDiff, Nat.reduceLT, Nat.reduceGT, Nat.reduceOr,
        Nat.reduceXor, reduceCtorEq, Bool.not_eq_true', Bool.not_eq_true,
        decide_eq_true_eq, decide_eq_false_iff_not, Bool.and_eq_true, Bool.or_eq_true,
        bne_iff_ne, beq_iff_eq, ne_eq, Bool.not_eq_false', Bool.not_eq_false, decide_not,
        not_not, Bool.decide_eq_true, Bool.false_eq_true, Bool.true_eq_false,
        not_false_eq_true, not_true_eq_false, and_true, true_and, and_false, false_and,
        or_true, true_or, or_false, false_or, not_true, not_false_iff, iff_self, true_iff,
        iff_true, false_iff, iff_false, ite_self, decide_eq_decide, decide_False,
        decide_True, Bool.not_true, Bool.not_false]
  · set_option maxRecDepth 8000 in
    simp only [
        ↓reduceIte, ↓fast_log.log_start_2_sem, ↓fast_log.log_start_1_sem,
        ↓fast_log.log_entry_1_sem, h, h48, ↓Machine.get_setx, ↓Machine.get_setg,
        ↓Machine.get_setstk, ↓Machine.get_enter, ↓Machine.get_setFlags,
        ↓Machine.trace_set, ↓Machine.get_ite, ↓Machine.trace_ite, ↓Machine.obs_eq_get,
        ↓Machine.flags_get, ↓Machine.flags_trace, ↓sem_get_1, ↓sem_get_2, ↓sem_get_3,
        ↓sem_get_4, ↓sem_trace_1, ↓sem_trace_2, ↓sem_trace_3, ↓sem_trace_4, ↓load_const,
        cc_iff, ea, and_imm, and_imm_left, ilog2_lit, or_eq_zero, or_mod32, or_lt_2p31,
        Nat.mod_mod, Nat.zero_or, Nat.or_zero, Nat.sub_zero, Nat.add_mod_right, lane_eq,
        Machine.io_eq_get, Nat.xor_self, Loc.x.injEq, Loc.g.injEq, Loc.m.injEq,
        Bool.toNat_eq_zero, Bool.toNat_eq_one, Nat.reducePow, Nat.reduceMul,
        Nat.reduceMod, Nat.reduceAdd, Nat.reduceSub, Nat.reduceDiv, Nat.reduceEqDiff,
        Nat.reduceLTLE, Nat.reduceLeDiff, Nat.reduceLT, Nat.reduceGT, Nat.reduceOr,
        Nat.reduceXor, reduceCtorEq, Bool.not_eq_true', Bool.not_eq_true,
        decide_eq_true_eq, decide_eq_false_iff_not, Bool.and_eq_true, Bool.or_eq_true,
        bne_iff_ne, beq_iff_eq, ne_eq, Bool.not_eq_false', Bool.not_eq_false, decide_not,
        not_not, Bool.decide_eq_true, Bool.false_eq_true, Bool.true_eq_false,
        not_false_eq_true, not_true_eq_false, and_true, true_and, and_false, false_and,
        or_true, true_or, or_false, false_or, not_true, not_false_iff, iff_self, true_iff,
        iff_true, false_iff, iff_false, ite_self, decide_eq_decide, decide_False,
        decide_True, Bool.not_true, Bool.not_false]
  · set_option maxRecDepth 8000 in
    simp only [
        ↓reduceIte, ↓fast_log.log_start_2_sem, ↓fast_log.log_start_1_sem,
        ↓fast_log.log_entry_1_sem, h, h48, ↓Machine.get_setx, ↓Machine.get_setg,
        ↓Machine.get_setstk, ↓Machine.get_enter, ↓Machine.get_setFlags,
        ↓Machine.trace_set, ↓Machine.get_ite, ↓Machine.trace_ite, ↓Machine.obs_eq_get,
        ↓Machine.flags_get, ↓Machine.flags_trace, ↓sem_get_1, ↓sem_get_2, ↓sem_get_3,
        ↓sem_get_4, ↓sem_trace_1, ↓sem_trace_2, ↓sem_trace_3, ↓sem_trace_4, ↓load_const,
        cc_iff, ea, and_imm, and_imm_left, ilog2_lit, or_eq_zero, or_mod32, or_lt_2p31,
        Nat.mod_mod, Nat.zero_or, Nat.or_zero, Nat.sub_zero, Nat.add_mod_right, lane_eq,
        Machine.io_eq_get, Nat.xor_self, Loc.x.injEq, Loc.g.injEq, Loc.m.injEq,
        Bool.toNat_eq_zero, Bool.toNat_eq_one, Nat.reducePow, Nat.reduceMul,
        Nat.reduceMod, Nat.reduceAdd, Nat.reduceSub, Nat.reduceDiv, Nat.reduceEqDiff,
        Nat.reduceLTLE, Nat.reduceLeDiff, Nat.reduceLT, Nat.reduceGT, Nat.reduceOr,
        Nat.reduceXor, reduceCtorEq, Bool.not_eq_true', Bool.not_eq_true,
        decide_eq_true_eq, decide_eq_false_iff_not, Bool.and_eq_true, Bool.or_eq_true,
        bne_iff_ne, beq_iff_eq, ne_eq, Bool.not_eq_false', Bool.not_eq_false, decide_not,
        not_not, Bool.decide_eq_true, Bool.false_eq_true, Bool.true_eq_false,
        not_false_eq_true, not_true_eq_false, and_true, true_and, and_false, false_and,
        or_true, true_or, or_false, false_or, not_true, not_false_iff, iff_self, true_iff,
        iff_true, false_iff, iff_false, ite_self, decide_eq_decide, decide_False,
        decide_True, Bool.not_true, Bool.not_false]
  · set_option maxRecDepth 8000 in
    simp only [
        ↓reduceIte, ↓fast_log.log_start_2_sem, ↓fast_log.log_start_1_sem,
        ↓fast_log.log_entry_1_sem, h, h48, ↓Machine.get_setx, ↓Machine.get_setg,
        ↓Machine.get_setstk, ↓Machine.get_enter, ↓Machine.get_setFlags,
        ↓Machine.trace_set, ↓Machine.get_ite, ↓Machine.trace_ite, ↓Machine.obs_eq_get,
        ↓Machine.flags_get, ↓Machine.flags_trace, ↓sem_get_1, ↓sem_get_2, ↓sem_get_3,
        ↓sem_get_4, ↓sem_trace_1, ↓sem_trace_2, ↓sem_trace_3, ↓sem_trace_4, ↓load_const,
        cc_iff, ea, and_imm, and_imm_left, ilog2_lit, or_eq_zero, or_mod32, or_lt_2p31,
        Nat.mod_mod, Nat.zero_or, Nat.or_zero, Nat.sub_zero, Nat.add_mod_right, lane_eq,
        Machine.io_eq_get, Nat.xor_self, Loc.x.injEq, Loc.g.injEq, Loc.m.injEq,
        Bool.toNat_eq_zero, Bool.toNat_eq_one, Nat.reducePow, Nat.reduceMul,
        Nat.reduceMod, Nat.reduceAdd, Nat.reduceSub, Nat.reduceDiv, Nat.reduceEqDiff,
        Nat.reduceLTLE, Nat.reduceLeDiff, Nat.reduceLT, Nat.reduceGT, Nat.reduceOr,
        Nat.reduceXor, reduceCtorEq, Bool.not_eq_true', Bool.not_eq_true,
        decide_eq_true_eq, decide_eq_false_iff_not, Bool.and_eq_true, Bool.or_eq_true,
        bne_iff_ne, beq_iff_eq, ne_eq, Bool.not_eq_false', Bool.not_eq_false, decide_not,
        not_not, Bool.decide_eq_true, Bool.false_eq_true, Bool.true_eq_false,
        not_false_eq_true, not_true_eq_false, and_true, true_and, and_false, false_and,
        or_true, true_or, or_false, false_or, not_true, not_false_iff, iff_self, true_iff,
        iff_true, false_iff, iff_false, ite_self, decide_eq_decide, decide_False,
        decide_True, Bool.not_true, Bool.not_false]
  · set_option maxRecDepth 8000 in
    simp only [
        ↓reduceIte, ↓fast_log.log_start_2_sem, ↓fast_log.log_start_1_sem,
        ↓fast_log.log_entry_1_sem, h, h48, ↓Machine.get_setx, ↓Machine.get_setg,
        ↓Machine.get_setstk, ↓Machine.get_enter, ↓Machine.get_setFlags,
        ↓Machine.trace_set, ↓Machine.get_ite, ↓Machine.trace_ite, ↓Machine.obs_eq_get,
        ↓Machine.flags_get, ↓Machine.flags_trace, ↓sem_get_1, ↓sem_get_2, ↓sem_get_3,
        ↓sem_get_4, ↓sem_trace_1, ↓sem_trace_2, ↓sem_trace_3, ↓sem_trace_4, ↓load_const,
        cc_iff, ea, and_imm, and_imm_left, ilog2_lit, or_eq_zero, or_mod32, or_lt_2p31,
        Nat.mod_mod, Nat.zero_or, Nat.or_zero, Nat.sub_zero, Nat.add_mod_right, lane_eq,
        Machine.io_eq_get, Nat.xor_self, Loc.x.injEq, Loc.g.injEq, Loc.m.injEq,
        Bool.toNat_eq_zero, Bool.toNat_eq_one, Nat.reducePow, Nat.reduceMul,
        Nat.reduceMod, Nat.reduceAdd, Nat.reduceSub, Nat.reduceDiv, Nat.reduceEqDiff,
        Nat.reduceLTLE, Nat.reduceLeDiff, Nat.reduceLT, Nat.reduceGT, Nat.reduceOr,
        Nat.reduceXor, reduceCtorEq, Bool.not_eq_true', Bool.not_eq_true,
        decide_eq_true_eq, decide_eq_false_iff_not, Bool.and_eq_true, Bool.or_eq_true,
        bne_iff_ne, beq_iff_eq, ne_eq, Bool.not_eq_false', Bool.not_eq_false, decide_not,
        not_not, Bool.decide_eq_true, Bool.false_eq_true, Bool.true_eq_false,
        not_false_eq_true, not_true_eq_false, and_true, true_and, and_false, false_and,
        or_true, true_or, or_false, false_or, not_true, not_false_iff, iff_self, true_iff,
        iff_true, false_iff, iff_false, ite_self, decide_eq_decide, decide_False,
        decide_True, Bool.not_true, Bool.not_false]
  · set_option maxRecDepth 8000 in
    simp only [
        ↓reduceIte, ↓fast_log.log_start_2_sem, ↓fast_log.log_start_1_sem,
        ↓fast_log.log_entry_1_sem, h, h48, ↓Machine.get_setx, ↓Machine.get_setg,
        ↓Machine.get_setstk, ↓Machine.get_enter, ↓Machine.get_setFlags,
        ↓Machine.trace_set, ↓Machine.get_ite, ↓Machine.trace_ite, ↓Machine.obs_eq_get,
        ↓Machine.flags_get, ↓Machine.flags_trace, ↓sem_get_1, ↓sem_get_2, ↓sem_get_3,
        ↓sem_get_4, ↓sem_trace_1, ↓sem_trace_2, ↓sem_trace_3, ↓sem_trace_4, ↓load_const,
        cc_iff, ea, and_imm, and_imm_left, ilog2_lit, or_eq_zero, or_mod32, or_lt_2p31,
        Nat.mod_mod, Nat.zero_or, Nat.or_zero, Nat.sub_zero, Nat.add_mod_right, lane_eq,
        Machine.io_eq_get, Nat.xor_self, Loc.x.injEq, Loc.g.injEq, Loc.m.injEq,
        Bool.toNat_eq_zero, Bool.toNat_eq_one, Nat.reducePow, Nat.reduceMul,
        Nat.reduceMod, Nat.reduceAdd, Nat.reduceSub, Nat.reduceDiv, Nat.reduceEqDiff,
        Nat.reduceLTLE, Nat.reduceLeDiff, Nat.reduceLT, Nat.reduceGT, Nat.reduceOr,
        Nat.reduceXor, reduceCtorEq, Bool.not_eq_true', Bool.not_eq_true,
        decide_eq_true_eq, decide_eq_false_iff_not, Bool.and_eq_true, Bool.or_eq_true,
        bne_iff_ne, beq_iff_eq, ne_eq, Bool.not_eq_false', Bool.not_eq_false, decide_not,
        not_not, Bool.decide_eq_true, Bool.false_eq_true, Bool.true_eq_false,
        not_false_eq_true, not_true_eq_false, and_true, true_and, and_false, false_and,
        or_true, true_or, or_false, false_or, not_true, not_false_iff, iff_self, true_iff,
        iff_true, false_iff, iff_false, ite_self, decide_eq_decide, decide_False,
        decide_True, Bool.not_true, Bool.not_false]
  rw [
      fast_log, fast_log.log_entry_eq, fast_log.log_start_eq, if_neg]
  · set_option maxRecDepth 8000 in
    simp only [
        ↓reduceIte, h, h48, ↓fast_log.log_start_1_sem, ↓fast_log.log_entry_1_sem,
        ↓Machine.get_setx, ↓Machine.get_setg, ↓Machine.get_setstk, ↓Machine.get_enter,
        ↓Machine.get_setFlags, ↓Machine.trace_set, ↓Machine.get_ite, ↓Machine.trace_ite,
        ↓Machine.obs_eq_get, ↓Machine.flags_get, ↓Machine.flags_trace, ↓sem_get_1,
        ↓sem_get_2, ↓sem_get_3, ↓sem_get_4, ↓sem_trace_1, ↓sem_trace_2, ↓sem_trace_3,
        ↓sem_trace_4, ↓load_const, cc_iff, ea, and_imm, and_imm_left, ilog2_lit,
        or_eq_zero, or_mod32, or_lt_2p31, Nat.mod_mod, Nat.zero_or, Nat.or_zero,
        Nat.sub_zero, Nat.add_mod_right, lane_eq, Machine.io_eq_get, Nat.xor_self,
        Loc.x.injEq, Loc.g.injEq, Loc.m.injEq, Bool.toNat_eq_zero, Bool.toNat_eq_one,
        Nat.reducePow, Nat.reduceMul, Nat.reduceMod, Nat.reduceAdd, Nat.reduceSub,
        Nat.reduceDiv, Nat.reduceEqDiff, Nat.reduceLTLE, Nat.reduceLeDiff, Nat.reduceLT,
        Nat.reduceGT, Nat.reduceOr, Nat.reduceXor, reduceCtorEq, Bool.not_eq_true',
        Bool.not_eq_true, decide_eq_true_eq, decide_eq_false_iff_not, Bool.and_eq_true,
        Bool.or_eq_true, bne_iff_ne, beq_iff_eq, ne_eq, Bool.not_eq_false',
        Bool.not_eq_false, decide_not, not_not, Bool.decide_eq_true, Bool.false_eq_true,
        Bool.true_eq_false, not_false_eq_true, not_true_eq_false, and_true, true_and,
        and_false, false_and, or_true, true_or, or_false, false_or, not_true,
        not_false_iff, iff_self, true_iff, iff_true, false_iff, iff_false, ite_self,
        decide_eq_decide, decide_False, decide_True, Bool.not_true, Bool.not_false]
    all_goals omega

/-- The run of `fast_log` at `1.0` on a processor whose estimate is within the bound. -/
theorem fast_log_one_run (cpu : Cpu) (s : Machine) (h : s.arg0 = 0x3FF0000000000000)
    (h0 : rcpWithin 0x3F800000 (cpu.rcp 0x3F800000 % 2 ^ 32) = true)
    (h1 : cpu.rcp 1 % 2 ^ 32 = 0x7F800000) :
    (fast_log cpu s).result = 0 := by
  obtain ⟨t, ht, a0, a1, a2, a3, a4, a5, a6, a7, a8, a9, a10⟩ := fast_log_one_prefix cpu s h
  have hb := rcpWithin_one _ (Nat.mod_lt (cpu.rcp 0x3F800000) (by decide : 0 < 2 ^ 32)) h0
  simp only [Nat.reducePow] at hb h1
  rw [ht]
  cases hs : cpu.supports_sse3
  · exact fast_log_L1_one_sse2 cpu t hs (by omega) (by omega) a2 a3 a4 a5 a6 a7 a8 a9 a10
  · exact fast_log_L1_one cpu t hs (by omega) (by omega) a2 a3 a4 a5 a6 a7 a8 a9 a10

/-- C12: `fast_log(1.0)` is `+0` (bits `0x0000000000000000`) on every processor whose
`rcpps` returns, for the operand `1.0f` of lane 0, an estimate with relative error at most
`1.5 * 2^-12`, and, for the subnormal operand of lane 1 (the pattern `1`), `+Inf` as the
instruction does for subnormal operands; with or without SSE3. -/
theorem fast_log_one (cpu : Cpu) (s : Machine) (h : s.arg0 = 0x3FF0000000000000)
    (h0 : rcpWithin 0x3F800000 (cpu.rcp 0x3F800000 % 2 ^ 32) = true)
    (h1 : cpu.rcp 1 % 2 ^ 32 = 0x7F800000) :
    (fast_log cpu s).result = 0 :=
  fast_log_one_run cpu s h h0 h1

set_option maxRecDepth 100000 in
theorem fast_log_one_witness :
    ((Machine.init 0x3FF0000000000000 0).arg0 = 0x3FF0000000000000 ∧
      rcpWithin 0x3F800000 (Cpu.sample.rcp 0x3F800000 % 2 ^ 32) = true ∧
      Cpu.sample.rcp 1 % 2 ^ 32 = 0x7F800000) ∧
    (fast_log Cpu.sample (Machine.init 0x3FF0000000000000 0)).result = 0 :=
  ⟨by decide!, fast_log_one Cpu.sample (Machine.init 0x3FF0000000000000 0) (by decide!)
    (by decide!) (by decide!)⟩

end MacroAssembler

namespace MacroAssembler
open XReg GReg Machine

/-! ### `fast_exp` at the infinities -/

theorem fast_exp_pos_inf_run (cpu : Cpu) (s : Machine) (h : s.arg0 = 0x7FF0000000000000) :
    (fast_exp cpu s).result = 0x7FF0000000000000 ∧
    (fast_exp cpu s).trace = [Label.B1_5, Label.L_2TAG_PACKET_9_0_2, Label.L_2TAG_PACKET_8_0_2,
      Label.L_2TAG_PACKET_0_0_2, Label.start, Label.entry] ++ s.trace := by
  simp only [Machine.io_eq_get, Nat.reducePow] at h
  rw [
      fast_exp, fast_exp.exp_entry_eq, fast_exp.exp_start_eq, if_pos,
      fast_exp.exp_L_2TAG_PACKET_0_0_2_eq, if_pos, fast_exp.exp_L_2TAG_PACKET_8_0_2_eq,
      if_pos, fast_exp.exp_L_2TAG_PACKET_9_0_2_eq, if_neg, if_neg, if_neg,
      fast_exp.exp_B1_5_eq]
  · set_option maxRecDepth 8000 in
    simp only [
        ↓reduceIte, h, ↓fast_exp.exp_B1_5_1_sem, ↓fast_exp.exp_L_2TAG_PACKET_9_0_2_4_sem,
        ↓fast_exp.exp_L_2TAG_PACKET_9_0_2_3_sem, ↓fast_exp.exp_L_2TAG_PACKET_9_0_2_2_sem,
        ↓fast_exp.exp_L_2TAG_PACKET_9_0_2_1_sem, ↓fast_exp.exp_L_2TAG_PACKET_8_0_2_1_sem,
        ↓fast_exp.exp_L_2TAG_PACKET_0_0_2_1_sem, ↓fast_exp.exp_start_1_sem,
        ↓fast_exp.exp_entry_1_sem, ↓Machine.get_setx, ↓Machine.get_setg,
        ↓Machine.get_setstk, ↓Machine.get_enter, ↓Machine.get_setFlags,
        ↓Machine.trace_set, ↓Machine.get_ite, ↓Machine.trace_ite, ↓Machine.obs_eq_get,
        ↓Machine.flags_get, ↓Machine.flags_trace, ↓sem_get_1, ↓sem_get_2, ↓sem_get_3,
        ↓sem_get_4, ↓sem_trace_1, ↓sem_trace_2, ↓sem_trace_3, ↓sem_trace_4, ↓load_const,
        cc_iff, ea, and_imm, and_imm_left, ilog2_lit, or_eq_zero, or_mod32, or_lt_2p31,
        Nat.mod_mod, Nat.zero_or, Nat.or_zero, Nat.sub_zero, Nat.add_mod_right, lane_eq,
        Machine.io_eq_get, Nat.xor_self, Loc.x.injEq, Loc.g.injEq, Loc.m.injEq,
        Bool.toNat_eq_zero, Bool.toNat_eq_one, Nat.reducePow, Nat.reduceMul,
        Nat.reduceMod, Nat.reduceAdd, Nat.reduceSub, Nat.reduceDiv, Nat.reduceEqDiff,
        Nat.reduceLTLE, Nat.reduceLeDiff, Nat.reduceLT, Nat.reduceGT, Nat.reduceOr,
        Nat.reduceXor, reduceCtorEq, Bool.not_eq_true', Bool.not_eq_true,
        decide_eq_true_eq, decide_eq_false_iff_not, Bool.and_eq_true, Bool.or_eq_true,
        bne_iff_ne, beq_iff_eq, ne_eq, Bool.not_eq_false', Bool.not_eq_false, decide_not,
        not_not, Bool.decide_eq_true, Bool.false_eq_true, Bool.true_eq_false,
        not_false_eq_true, not_true_eq_false, and_true, true_and, and_false, false_and,
        or_true, true_or, or_false, false_or, not_true, not_false_iff, iff_self, true_iff,
        iff_true, false_iff, iff_false, ite_self, decide_eq_decide, decide_False,
        decide_True, Bool.not_true, Bool.not_false]
    simp
  · set_option maxRecDepth 8000 in
    simp only [
        ↓reduceIte, h, ↓fast_exp.exp_L_2TAG_PACKET_9_0_2_3_sem,
        ↓fast_exp.exp_L_2TAG_PACKET_9_0_2_2_sem, ↓fast_exp.exp_L_2TAG_PACKET_9_0_2_1_sem,
        ↓fast_exp.exp_L_2TAG_PACKET_8_0_2_1_sem, ↓fast_exp.exp_L_2TAG_PACKET_0_0_2_1_sem,
        ↓fast_exp.exp_start_1_sem, ↓fast_exp.exp_entry_1_sem, ↓Machine.get_setx,
        ↓Machine.get_setg, ↓Machine.get_setstk, ↓Machine.get_enter, ↓Machine.get_setFlags,
        ↓Machine.trace_set, ↓Machine.get_ite, ↓Machine.trace_ite, ↓Machine.obs_eq_get,
        ↓Machine.flags_get, ↓Machine.flags_trace, ↓sem_get_1, ↓sem_get_2, ↓sem_get_3,
        ↓sem_get_4, ↓sem_trace_1, ↓sem_trace_2, ↓sem_trace_3, ↓sem_trace_4, ↓load_const,
        cc_iff, ea, and_imm, and_imm_left, ilog2_lit, or_eq_zero, or_mod32, or_lt_2p31,
        Nat.mod_mod, Nat.zero_or, Nat.or_zero, Nat.sub_zero, Nat.add_mod_right, lane_eq,
        Machine.io_eq_get, Nat.xor_self, Loc.x.injEq, Loc.g.injEq, Loc.m.injEq,
        Bool.toNat_eq_zero, Bool.toNat_eq_one, Nat.reducePow, Nat.reduceMul,
        Nat.reduceMod, Nat.reduceAdd, Nat.reduceSub, Nat.reduceDiv, Nat.reduceEqDiff,
        Nat.reduceLTLE, Nat.reduceLeDiff, Nat.reduceLT, Nat.reduceGT, Nat.reduceOr,
        Nat.reduceXor, reduceCtorEq, Bool.not_eq_true', Bool.not_eq_true,
        decide_eq_true_eq, decide_eq_false_iff_not, Bool.and_eq_true, Bool.or_eq_true,
        bne_iff_ne, beq_iff_eq, ne_eq, Bool.not_eq_false', Bool.not_eq_false, decide_not,
        not_not, Bool.decide_eq_true, Bool.false_eq_true, Bool.true_eq_false,
        not_false_eq_true, not_true_eq_false, and_true, true_and, and_false, false_and,
        or_true, true_or, or_false, false_or, not_true, not_false_iff, iff_self, true_iff,
        iff_true, false_iff, iff_false, ite_self, decide_eq_decide, decide_False,
        decide_True, Bool.not_true, Bool.not_false]
  · set_option maxRecDepth 8000 in
    simp only [
        ↓reduceIte, h, ↓fast_exp.exp_L_2TAG_PACKET_9_0_2_2_sem,
        ↓fast_exp.exp_L_2TAG_PACKET_9_0_2_1_sem, ↓fast_exp.exp_L_2TAG_PACKET_8_0_2_1_sem,
        ↓fast_exp.exp_L_2TAG_PACKET_0_0_2_1_sem, ↓fast_exp.exp_start_1_sem,
        ↓fast_exp.exp_entry_1_sem, ↓Machine.get_setx, ↓Machine.get_setg,
        ↓Machine.get_setstk, ↓Machine.get_enter, ↓Machine.get_setFlags,
        ↓Machine.trace_set, ↓Machine.get_ite, ↓Machine.trace_ite, ↓Machine.obs_eq_get,
        ↓Machine.flags_get, ↓Machine.flags_trace, ↓sem_get_1, ↓sem_get_2, ↓sem_get_3,
        ↓sem_get_4, ↓sem_trace_1, ↓sem_trace_2, ↓sem_trace_3, ↓sem_trace_4, ↓load_const,
        cc_iff, ea, and_imm, and_imm_left, ilog2_lit, or_eq_zero, or_mod32, or_lt_2p31,
        Nat.mod_mod, Nat.zero_or, Nat.or_zero, Nat.sub_zero, Nat.add_mod_right, lane_eq,
        Machine.io_eq_get, Nat.xor_self, Loc.x.injEq, Loc.g.injEq, Loc.m.injEq,
        Bool.toNat_eq_zero, Bool.toNat_eq_one, Nat.reducePow, Nat.reduceMul,
        Nat.reduceMod, Nat.reduceAdd, Nat.reduceSub, Nat.reduceDiv, Nat.reduceEqDiff,
        Nat.reduceLTLE, Nat.reduceLeDiff, Nat.reduceLT, Nat.reduceGT, Nat.reduceOr,
        Nat.reduceXor, reduceCtorEq, Bool.not_eq_true', Bool.not_eq_true,
        decide_eq_true_eq, decide_eq_false_iff_not, Bool.and_eq_true, Bool.or_eq_true,
        bne_iff_ne, beq_iff_eq, ne_eq, Bool.not_eq_false', Bool.not_eq_false, decide_not,
        not_not, Bool.decide_eq_true, Bool.false_eq_true, Bool.true_eq_false,
        not_false_eq_true, not_true_eq_false, and_true, true_and, and_false, false_and,
        or_true, true_or, or_false, false_or, not_true, not_false_iff, iff_self, true_iff,
        iff_true, false_iff, iff_false, ite_self, decide_eq_decide, decide_False,
        decide_True, Bool.not_true, Bool.not_false]
  · set_option maxRecDepth 8000 in
    simp only [
        ↓reduceIte, h, ↓fast_exp.exp_L_2TAG_PACKET_9_0_2_1_sem,
        ↓fast_exp.exp_L_2TAG_PACKET_8_0_2_1_sem, ↓fast_exp.exp_L_2TAG_PACKET_0_0_2_1_sem,
        ↓fast_exp.exp_start_1_sem, ↓fast_exp.exp_entry_1_sem, ↓Machine.get_setx,
        ↓Machine.get_setg, ↓Machine.get_setstk, ↓Machine.get_enter, ↓Machine.get_setFlags,
        ↓Machine.trace_set, ↓Machine.get_ite, ↓Machine.trace_ite, ↓Machine.obs_eq_get,
        ↓Machine.flags_get, ↓Machine.flags_trace, ↓sem_get_1, ↓sem_get_2, ↓sem_get_3,
        ↓sem_get_4, ↓sem_trace_1, ↓sem_trace_2, ↓sem_trace_3, ↓sem_trace_4, ↓load_const,
        cc_iff, ea, and_imm, and_imm_left, ilog2_lit, or_eq_zero, or_mod32, or_lt_2p31,
        Nat.mod_mod, Nat.zero_or, Nat.or_zero, Nat.sub_zero, Nat.add_mod_right, lane_eq,
        Machine.io_eq_get, Nat.xor_self, Loc.x.injEq, Loc.g.injEq, Loc.m.injEq,
        Bool.toNat_eq_zero, Bool.toNat_eq_one, Nat.reducePow, Nat.reduceMul,
        Nat.reduceMod, Nat.reduceAdd, Nat.reduceSub, Nat.reduceDiv, Nat.reduceEqDiff,
        Nat.reduceLTLE, Nat.reduceLeDiff, Nat.reduceLT, Nat.reduceGT, Nat.reduceOr,
        Nat.reduceXor, reduceCtorEq, Bool.not_eq_true', Bool.not_eq_true,
        decide_eq_true_eq, decide_eq_false_iff_not, Bool.and_eq_true, Bool.or_eq_true,
        bne_iff_ne, beq_iff_eq, ne_eq, Bool.not_eq_false', Bool.not_eq_false, decide_not,
        not_not, Bool.decide_eq_true, Bool.false_eq_true, Bool.true_eq_false,
        not_false_eq_true, not_true_eq_false, and_true, true_and, and_false, false_and,
        or_true, true_or, or_false, false_or, not_true, not_false_iff, iff_self, true_iff,
        iff_true, false_iff, iff_false, ite_self, decide_eq_decide, decide_False,
        decide_True, Bool.not_true, Bool.not_false]
  · set_option maxRecDepth 8000 in
    simp only [
        ↓reduceIte, h, ↓fast_exp.exp_L_2TAG_PACKET_8_0_2_1_sem,
        ↓fast_exp.exp_L_2TAG_PACKET_0_0_2_1_sem, ↓fast_exp.exp_start_1_sem,
        ↓fast_exp.exp_entry_1_sem, ↓Machine.get_setx, ↓Machine.get_setg,
        ↓Machine.get_setstk, ↓Machine.get_enter, ↓Machine.get_setFlags,
        ↓Machine.trace_set, ↓Machine.get_ite, ↓Machine.trace_ite, ↓Machine.obs_eq_get,
        ↓Machine.flags_get, ↓Machine.flags_trace, ↓sem_get_1, ↓sem_get_2, ↓sem_get_3,
        ↓sem_get_4, ↓sem_trace_1, ↓sem_trace_2, ↓sem_trace_3, ↓sem_trace_4, ↓load_const,
        cc_iff, ea, and_imm, and_imm_left, ilog2_lit, or_eq_zero, or_mod32, or_lt_2p31,
        Nat.mod_mod, Nat.zero_or, Nat.or_zero, Nat.sub_zero, Nat.add_mod_right, lane_eq,
        Machine.io_eq_get, Nat.xor_self, Loc.x.injEq, Loc.g.injEq, Loc.m.injEq,
        Bool.toNat_eq_zero, Bool.toNat_eq_one, Nat.reducePow, Nat.reduceMul,
        Nat.reduceMod, Nat.reduceAdd, Nat.reduceSub, Nat.reduceDiv, Nat.reduceEqDiff,
        Nat.reduceLTLE, Nat.reduceLeDiff, Nat.reduceLT, Nat.reduceGT, Nat.reduceOr,
        Nat.reduceXor, reduceCtorEq, Bool.not_eq_true', Bool.not_eq_true,
        decide_eq_true_eq, decide_eq_false_iff_not, Bool.and_eq_true, Bool.or_eq_true,
        bne_iff_ne, beq_iff_eq, ne_eq, Bool.not_eq_false', Bool.not_eq_false, decide_not,
        not_not, Bool.decide_eq_true, Bool.false_eq_true, Bool.true_eq_false,
        not_false_eq_true, not_true_eq_false, and_true, true_and, and_false, false_and,
        or_true, true_or, or_false, false_or, not_true, not_false_iff, iff_self, true_iff,
        iff_true, false_iff, iff_false, ite_self, decide_eq_decide, decide_False,
        decide_True, Bool.not_true, Bool.not_false]
  · set_option maxRecDepth 8000 in
    simp only [
        ↓reduceIte, h, ↓fast_exp.exp_L_2TAG_PACKET_0_0_2_1_sem, ↓fast_exp.exp_start_1_sem,
        ↓fast_exp.exp_entry_1_sem, ↓Machine.get_setx, ↓Machine.get_setg,
        ↓Machine.get_setstk, ↓Machine.get_enter, ↓Machine.get_setFlags,
        ↓Machine.trace_set, ↓Machine.get_ite, ↓Machine.trace_ite, ↓Machine.obs_eq_get,
        ↓Machine.flags_get, ↓Machine.flags_trace, ↓sem_get_1, ↓sem_get_2, ↓sem_get_3,
        ↓sem_get_4, ↓sem_trace_1, ↓sem_trace_2, ↓sem_trace_3, ↓sem_trace_4, ↓load_const,
        cc_iff, ea, and_imm, and_imm_left, ilog2_lit, or_eq_zero, or_mod32, or_lt_2p31,
        Nat.mod_mod, Nat.zero_or, Nat.or_zero, Nat.sub_zero, Nat.add_mod_right, lane_eq,
        Machine.io_eq_get, Nat.xor_self, Loc.x.injEq, Loc.g.injEq, Loc.m.injEq,
        Bool.toNat_eq_zero, Bool.toNat_eq_one, Nat.reducePow, Nat.reduceMul,
        Nat.reduceMod, Nat.reduceAdd, Nat.reduceSub, Nat.reduceDiv, Nat.reduceEqDiff,
        Nat.reduceLTLE, Nat.reduceLeDiff, Nat.reduceLT, Nat.reduceGT, Nat.reduceOr,
        Nat.reduceXor, reduceCtorEq, Bool.not_eq_true', Bool.not_eq_true,
        decide_eq_true_eq, decide_eq_false_iff_not, Bool.and_eq_true, Bool.or_eq_true,
        bne_iff_ne, beq_iff_eq, ne_eq, Bool.not_eq_false', Bool.not_eq_false, decide_not,
        not_not, Bool.decide_eq_true, Bool.false_eq_true, Bool.true_eq_false,
        not_false_eq_true, not_true_eq_false, and_true, true_and, and_false, false_and,
        or_true, true_or, or_false, false_or, not_true, not_false_iff, iff_self, true_iff,
        iff_true, false_iff, iff_false, ite_self, decide_eq_decide, decide_False,
        decide_True, Bool.not_true, Bool.not_false]
  · set_option maxRecDepth 8000 in
    simp only [
        ↓reduceIte, h, ↓fast_exp.exp_start_1_sem, ↓fast_exp.exp_entry_1_sem,
        ↓Machine.get_setx, ↓Machine.get_setg, ↓Machine.get_setstk, ↓Machine.get_enter,
        ↓Machine.get_setFlags, ↓Machine.trace_set, ↓Machine.get_ite, ↓Machine.trace_ite,
        ↓Machine.obs_eq_get, ↓Machine.flags_get, ↓Machine.flags_trace, ↓sem_get_1,
        ↓sem_get_2, ↓sem_get_3, ↓sem_get_4, ↓sem_trace_1, ↓sem_trace_2, ↓sem_trace_3,
        ↓sem_trace_4, ↓load_const, cc_iff, ea, and_imm, and_imm_left, ilog2_lit,
        or_eq_zero, or_mod32, or_lt_2p31, Nat.mod_mod, Nat.zero_or, Nat.or_zero,
        Nat.sub_zero, Nat.add_mod_right, lane_eq, Machine.io_eq_get, Nat.xor_self,
        Loc.x.injEq, Loc.g.injEq, Loc.m.injEq, Bool.toNat_eq_zero, Bool.toNat_eq_one,
        Nat.reducePow, Nat.reduceMul, Nat.reduceMod, Nat.reduceAdd, Nat.reduceSub,
        Nat.reduceDiv, Nat.reduceEqDiff, Nat.reduceLTLE, Nat.reduceLeDiff, Nat.reduceLT,
        Nat.reduceGT, Nat.reduceOr, Nat.reduceXor, reduceCtorEq, Bool.not_eq_true',
        Bool.not_eq_true, decide_eq_true_eq, decide_eq_false_iff_not, Bool.and_eq_true,
        Bool.or_eq_true, bne_iff_ne, beq_iff_eq, ne_eq, Bool.not_eq_false',
        Bool.not_eq_false, decide_not, not_not, Bool.decide_eq_true, Bool.false_eq_true,
        Bool.true_eq_false, not_false_eq_true, not_true_eq_false, and_true, true_and,
        and_false, false_and, or_true, true_or, or_false, false_or, not_true,
        not_false_iff, iff_self, true_iff, iff_true, false_iff, iff_false, ite_self,
        decide_eq_decide, decide_False, decide_True, Bool.not_true, Bool.not_false]

theorem fast_exp_neg_inf_run (cpu : Cpu) (s : Machine) (h : s.arg0 = 0xFFF0000000000000) :
    (fast_exp cpu s).result = 0 ∧
    (fast_exp cpu s).trace = [Label.B1_5, Label.L_2TAG_PACKET_12_0_2,
      Label.L_2TAG_PACKET_9_0_2, Label.L_2TAG_PACKET_8_0_2, Label.L_2TAG_PACKET_0_0_2,
      Label.start, Label.entry] ++ s.trace := by
  simp only [Machine.io_eq_get, Nat.reducePow] at h
  rw [
      fast_exp, fast_exp.exp_entry_eq, fast_exp.exp_start_eq, if_pos,
      fast_exp.exp_L_2TAG_PACKET_0_0_2_eq, if_pos, fast_exp.exp_L_2TAG_PACKET_8_0_2_eq,
      if_pos, fast_exp.exp_L_2TAG_PACKET_9_0_2_eq, if_neg, if_neg, if_pos,
      fast_exp.exp_L_2TAG_PACKET_12_0_2_eq, fast_exp.exp_B1_5_eq]
  · set_option maxRecDepth 8000 in
    simp only [
        ↓reduceIte, h, ↓fast_exp.exp_B1_5_1_sem, ↓fast_exp.exp_L_2TAG_PACKET_12_0_2_1_sem,
        ↓fast_exp.exp_L_2TAG_PACKET_9_0_2_3_sem, ↓fast_exp.exp_L_2TAG_PACKET_9_0_2_2_sem,
        ↓fast_exp.exp_L_2TAG_PACKET_9_0_2_1_sem, ↓fast_exp.exp_L_2TAG_PACKET_8_0_2_1_sem,
        ↓fast_exp.exp_L_2TAG_PACKET_0_0_2_1_sem, ↓fast_exp.exp_start_1_sem,
        ↓fast_exp.exp_entry_1_sem, ↓Machine.get_setx, ↓Machine.get_setg,
        ↓Machine.get_setstk, ↓Machine.get_enter, ↓Machine.get_setFlags,
        ↓Machine.trace_set, ↓Machine.get_ite, ↓Machine.trace_ite, ↓Machine.obs_eq_get,
        ↓Machine.flags_get, ↓Machine.flags_trace, ↓sem_get_1, ↓sem_get_2, ↓sem_get_3,
        ↓sem_get_4, ↓sem_trace_1, ↓sem_trace_2, ↓sem_trace_3, ↓sem_trace_4, ↓load_const,
        cc_iff, ea, and_imm, and_imm_left, ilog2_lit, or_eq_zero, or_mod32, or_lt_2p31,
        Nat.mod_mod, Nat.zero_or, Nat.or_zero, Nat.sub_zero, Nat.add_mod_right, lane_eq,
        Machine.io_eq_get, Nat.xor_self, Loc.x.injEq, Loc.g.injEq, Loc.m.injEq,
        Bool.toNat_eq_zero, Bool.toNat_eq_one, Nat.reducePow, Nat.reduceMul,
        Nat.reduceMod, Nat.reduceAdd, Nat.reduceSub, Nat.reduceDiv, Nat.reduceEqDiff,
        Nat.reduceLTLE, Nat.reduceLeDiff, Nat.reduceLT, Nat.reduceGT, Nat.reduceOr,
        Nat.reduceXor, reduceCtorEq, Bool.not_eq_true', Bool.not_eq_true,
        decide_eq_true_eq, decide_eq_false_iff_not, Bool.and_eq_true, Bool.or_eq_true,
        bne_iff_ne, beq_iff_eq, ne_eq, Bool.not_eq_false', Bool.not_eq_false, decide_not,
        not_not, Bool.decide_eq_true, Bool.false_eq_true, Bool.true_eq_false,
        not_false_eq_true, not_true_eq_false, and_true, true_and, and_false, false_and,
        or_true, true_or, or_false, false_or, not_true, not_false_iff, iff_self, true_iff,
        iff_true, false_iff, iff_false, ite_self, decide_eq_decide, decide_False,
        decide_True, Bool.not_true, Bool.not_false]
    simp
  · set_option maxRecDepth 8000 in
    simp only [
        ↓reduceIte, h, ↓fast_exp.exp_L_2TAG_PACKET_9_0_2_3_sem,
        ↓fast_exp.exp_L_2TAG_PACKET_9_0_2_2_sem, ↓fast_exp.exp_L_2TAG_PACKET_9_0_2_1_sem,
        ↓fast_exp.exp_L_2TAG_PACKET_8_0_2_1_sem, ↓fast_exp.exp_L_2TAG_PACKET_0_0_2_1_sem,
        ↓fast_exp.exp_start_1_sem, ↓fast_exp.exp_entry_1_sem, ↓Machine.get_setx,
        ↓Machine.get_setg, ↓Machine.get_setstk, ↓Machine.get_enter, ↓Machine.get_setFlags,
        ↓Machine.trace_set, ↓Machine.get_ite, ↓Machine.trace_ite, ↓Machine.obs_eq_get,
        ↓Machine.flags_get, ↓Machine.flags_trace, ↓sem_get_1, ↓sem_get_2, ↓sem_get_3,
        ↓sem_get_4, ↓sem_trace_1, ↓sem_trace_2, ↓sem_trace_3, ↓sem_trace_4, ↓load_const,
        cc_iff, ea, and_imm, and_imm_left, ilog2_lit, or_eq_zero, or_mod32, or_lt_2p31,
        Nat.mod_mod, Nat.zero_or, Nat.or_zero, Nat.sub_zero, Nat.add_mod_right, lane_eq,
        Machine.io_eq_get, Nat.xor_self, Loc.x.injEq, Loc.g.injEq, Loc.m.injEq,
        Bool.toNat_eq_zero, Bool.toNat_eq_one, Nat.reducePow, Nat.reduceMul,
        Nat.reduceMod, Nat.reduceAdd, Nat.reduceSub, Nat.reduceDiv, Nat.reduceEqDiff,
        Nat.reduceLTLE, Nat.reduceLeDiff, Nat.reduceLT, Nat.reduceGT, Nat.reduceOr,
        Nat.reduceXor, reduceCtorEq, Bool.not_eq_true', Bool.not_eq_true,
        decide_eq_true_eq, decide_eq_false_iff_not, Bool.and_eq_true, Bool.or_eq_true,
        bne_iff_ne, beq_iff_eq, ne_eq, Bool.not_eq_false', Bool.not_eq_false, decide_not,
        not_not, Bool.decide_eq_true, Bool.false_eq_true, Bool.true_eq_false,
        not_false_eq_true, not_true_eq_false, and_true, true_and, and_false, false_and,
        or_true, true_or, or_false, false_or, not_true, not_false_iff, iff_self, true_iff,
        iff_true, false_iff, iff_false, ite_self, decide_eq_decide, decide_False,
        decide_True, Bool.not_true, Bool.not_false]
  · set_option maxRecDepth 8000 in
    simp only [
        ↓reduceIte, h, ↓fast_exp.exp_L_2TAG_PACKET_9_0_2_2_sem,
        ↓fast_exp.exp_L_2TAG_PACKET_9_0_2_1_sem, ↓fast_exp.exp_L_2TAG_PACKET_8_0_2_1_sem,
        ↓fast_exp.exp_L_2TAG_PACKET_0_0_2_1_sem, ↓fast_exp.exp_start_1_sem,
        ↓fast_exp.exp_entry_1_sem, ↓Machine.get_setx, ↓Machine.get_setg,
        ↓Machine.get_setstk, ↓Machine.get_enter, ↓Machine.get_setFlags,
        ↓Machine.trace_set, ↓Machine.get_ite, ↓Machine.trace_ite, ↓Machine.obs_eq_get,
        ↓Machine.flags_get, ↓Machine.flags_trace, ↓sem_get_1, ↓sem_get_2, ↓sem_get_3,
        ↓sem_get_4, ↓sem_trace_1, ↓sem_trace_2, ↓sem_trace_3, ↓sem_trace_4, ↓load_const,
        cc_iff, ea, and_imm, and_imm_left, ilog2_lit, or_eq_zero, or_mod32, or_lt_2p31,
        Nat.mod_mod, Nat.zero_or, Nat.or_zero, Nat.sub_zero, Nat.add_mod_right, lane_eq,
        Machine.io_eq_get, Nat.xor_self, Loc.x.injEq, Loc.g.injEq, Loc.m.injEq,
        Bool.toNat_eq_zero, Bool.toNat_eq_one, Nat.reducePow, Nat.reduceMul,
        Nat.reduceMod, Nat.reduceAdd, Nat.reduceSub, Nat.reduceDiv, Nat.reduceEqDiff,
        Nat.reduceLTLE, Nat.reduceLeDiff, Nat.reduceLT, Nat.reduceGT, Nat.reduceOr,
        Nat.reduceXor, reduceCtorEq, Bool.not_eq_true', Bool.not_eq_true,
        decide_eq_true_eq, decide_eq_false_iff_not, Bool.and_eq_true, Bool.or_eq_true,
        bne_iff_ne, beq_iff_eq, ne_eq, Bool.not_eq_false', Bool.not_eq_false, decide_not,
        not_not, Bool.decide_eq_true, Bool.false_eq_true, Bool.true_eq_false,
        not_false_eq_true, not_true_eq_false, and_true, true_and, and_false, false_and,
        or_true, true_or, or_false, false_or, not_true, not_false_iff, iff_self, true_iff,
        iff_true, false_iff, iff_false, ite_self, decide_eq_decide, decide_False,
        decide_True, Bool.not_true, Bool.not_false]
  · set_option maxRecDepth 8000 in
    simp only [
        ↓reduceIte, h, ↓fast_exp.exp_L_2TAG_PACKET_9_0_2_1_sem,
        ↓fast_exp.exp_L_2TAG_PACKET_8_0_2_1_sem, ↓fast_exp.exp_L_2TAG_PACKET_0_0_2_1_sem,
        ↓fast_exp.exp_start_1_sem, ↓fast_exp.exp_entry_1_sem, ↓Machine.get_setx,
        ↓Machine.get_setg, ↓Machine.get_setstk, ↓Machine.get_enter, ↓Machine.get_setFlags,
        ↓Machine.trace_set, ↓Machine.get_ite, ↓Machine.trace_ite, ↓Machine.obs_eq_get,
        ↓Machine.flags_get, ↓Machine.flags_trace, ↓sem_get_1, ↓sem_get_2, ↓sem_get_3,
        ↓sem_get_4, ↓sem_trace_1, ↓sem_trace_2, ↓sem_trace_3, ↓sem_trace_4, ↓load_const,
        cc_iff, ea, and_imm, and_imm_left, ilog2_lit, or_eq_zero, or_mod32, or_lt_2p31,
        Nat.mod_mod, Nat.zero_or, Nat.or_zero, Nat.sub_zero, Nat.add_mod_right, lane_eq,
        Machine.io_eq_get, Nat.xor_self, Loc.x.injEq, Loc.g.injEq, Loc.m.injEq,
        Bool.toNat_eq_zero, Bool.toNat_eq_one, Nat.reducePow, Nat.reduceMul,
        Nat.reduceMod, Nat.reduceAdd, Nat.reduceSub, Nat.reduceDiv, Nat.reduceEqDiff,
        Nat.reduceLTLE, Nat.reduceLeDiff, Nat.reduceLT, Nat.reduceGT, Nat.reduceOr,
        Nat.reduceXor, reduceCtorEq, Bool.not_eq_true', Bool.not_eq_true,
        decide_eq_true_eq, decide_eq_false_iff_not, Bool.and_eq_true, Bool.or_eq_true,
        bne_iff_ne, beq_iff_eq, ne_eq, Bool.not_eq_false', Bool.not_eq_false, decide_not,
        not_not, Bool.decide_eq_true, Bool.false_eq_true, Bool.true_eq_false,
        not_false_eq_true, not_true_eq_false, and_true, true_and, and_false, false_and,
        or_true, true_or, or_false, false_or, not_true, not_false_iff, iff_self, true_iff,
        iff_true, false_iff, iff_false, ite_self, decide_eq_decide, decide_False,
        decide_True, Bool.not_true, Bool.not_false]
  · set_option maxRecDepth 8000 in
    simp only [
        ↓reduceIte, h, ↓fast_exp.exp_L_2TAG_PACKET_8_0_2_1_sem,
        ↓fast_exp.exp_L_2TAG_PACKET_0_0_2_1_sem, ↓fast_exp.exp_start_1_sem,
        ↓fast_exp.exp_entry_1_sem, ↓Machine.get_setx, ↓Machine.get_setg,
        ↓Machine.get_setstk, ↓Machine.get_enter, ↓Machine.get_setFlags,
        ↓Machine.trace_set, ↓Machine.get_ite, ↓Machine.trace_ite, ↓Machine.obs_eq_get,
        ↓Machine.flags_get, ↓Machine.flags_trace, ↓sem_get_1, ↓sem_get_2, ↓sem_get_3,
        ↓sem_get_4, ↓sem_trace_1, ↓sem_trace_2, ↓sem_trace_3, ↓sem_trace_4, ↓load_const,
        cc_iff, ea, and_imm, and_imm_left, ilog2_lit, or_eq_zero, or_mod32, or_lt_2p31,
        Nat.mod_mod, Nat.zero_or, Nat.or_zero, Nat.sub_zero, Nat.add_mod_right, lane_eq,
        Machine.io_eq_get, Nat.xor_self, Loc.x.injEq, Loc.g.injEq, Loc.m.injEq,
        Bool.toNat_eq_zero, Bool.toNat_eq_one, Nat.reducePow, Nat.reduceMul,
        Nat.reduceMod, Nat.reduceAdd, Nat.reduceSub, Nat.reduceDiv, Nat.reduceEqDiff,
        Nat.reduceLTLE, Nat.reduceLeDiff, Nat.reduceLT, Nat.reduceGT, Nat.reduceOr,
        Nat.reduceXor, reduceCtorEq, Bool.not_eq_true', Bool.not_eq_true,
        decide_eq_true_eq, decide_eq_false_iff_not, Bool.and_eq_true, Bool.or_eq_true,
        bne_iff_ne, beq_iff_eq, ne_eq, Bool.not_eq_false', Bool.not_eq_false, decide_not,
        not_not, Bool.decide_eq_true, Bool.false_eq_true, Bool.true_eq_false,
        not_false_eq_true, not_true_eq_false, and_true, true_and, and_false, false_and,
        or_true, true_or, or_false, false_or, not_true, not_false_iff, iff_self, true_iff,
        iff_true, false_iff, iff_false, ite_self, decide_eq_decide, decide_False,
        decide_True, Bool.not_true, Bool.not_false]
  · set_option maxRecDepth 8000 in
    simp only [
        ↓reduceIte, h, ↓fast_exp.exp_L_2TAG_PACKET_0_0_2_1_sem, ↓fast_exp.exp_start_1_sem,
        ↓fast_exp.exp_entry_1_sem, ↓Machine.get_setx, ↓Machine.get_setg,
        ↓Machine.get_setstk, ↓Machine.get_enter, ↓Machine.get_setFlags,
        ↓Machine.trace_set, ↓Machine.get_ite, ↓Machine.trace_ite, ↓Machine.obs_eq_get,
        ↓Machine.flags_get, ↓Machine.flags_trace, ↓sem_get_1, ↓sem_get_2, ↓sem_get_3,
        ↓sem_get_4, ↓sem_trace_1, ↓sem_trace_2, ↓sem_trace_3, ↓sem_trace_4, ↓load_const,
        cc_iff, ea, and_imm, and_imm_left, ilog2_lit, or_eq_zero, or_mod32, or_lt_2p31,
        Nat.mod_mod, Nat.zero_or, Nat.or_zero, Nat.sub_zero, Nat.add_mod_right, lane_eq,
        Machine.io_eq_get, Nat.xor_self, Loc.x.injEq, Loc.g.injEq, Loc.m.injEq,
        Bool.toNat_eq_zero, Bool.toNat_eq_one, Nat.reducePow, Nat.reduceMul,
        Nat.reduceMod, Nat.reduceAdd, Nat.reduceSub, Nat.reduceDiv, Nat.reduceEqDiff,
        Nat.reduceLTLE, Nat.reduceLeDiff, Nat.reduceLT, Nat.reduceGT, Nat.reduceOr,
        Nat.reduceXor, reduceCtorEq, Bool.not_eq_true', Bool.not_eq_true,
        decide_eq_true_eq, decide_eq_false_iff_not, Bool.and_eq_true, Bool.or_eq_true,
        bne_iff_ne, beq_iff_eq, ne_eq, Bool.not_eq_false', Bool.not_eq_false, decide_not,
        not_not, Bool.decide_eq_true, Bool.false_eq_true, Bool.true_eq_false,
        not_false_eq_true, not_true_eq_false, and_true, true_and, and_false, false_and,
        or_true, true_or, or_false, false_or, not_true, not_false_iff, iff_self, true_iff,
        iff_true, false_iff, iff_false, ite_self, decide_eq_decide, decide_False,
        decide_True, Bool.not_true, Bool.not_false]
  · set_option maxRecDepth 8000 in
    simp only [
        ↓reduceIte, h, ↓fast_exp.exp_start_1_sem, ↓fast_exp.exp_entry_1_sem,
        ↓Machine.get_setx, ↓Machine.get_setg, ↓Machine.get_setstk, ↓Machine.get_enter,
        ↓Machine.get_setFlags, ↓Machine.trace_set, ↓Machine.get_ite, ↓Machine.trace_ite,
        ↓Machine.obs_eq_get, ↓Machine.flags_get, ↓Machine.flags_trace, ↓sem_get_1,
        ↓sem_get_2, ↓sem_get_3, ↓sem_get_4, ↓sem_trace_1, ↓sem_trace_2, ↓sem_trace_3,
        ↓sem_trace_4, ↓load_const, cc_iff, ea, and_imm, and_imm_left, ilog2_lit,
        or_eq_zero, or_mod32, or_lt_2p31, Nat.mod_mod, Nat.zero_or, Nat.or_zero,
        Nat.sub_zero, Nat.add_mod_right, lane_eq, Machine.io_eq_get, Nat.xor_self,
        Loc.x.injEq, Loc.g.injEq, Loc.m.injEq, Bool.toNat_eq_zero, Bool.toNat_eq_one,
        Nat.reducePow, Nat.reduceMul, Nat.reduceMod, Nat.reduceAdd, Nat.reduceSub,
        Nat.reduceDiv, Nat.reduceEqDiff, Nat.reduceLTLE, Nat.reduceLeDiff, Nat.reduceLT,
        Nat.reduceGT, Nat.reduceOr, Nat.reduceXor, reduceCtorEq, Bool.not_eq_true',
        Bool.not_eq_true, decide_eq_true_eq, decide_eq_false_iff_not, Bool.and_eq_true,
        Bool.or_eq_true, bne_iff_ne, beq_iff_eq, ne_eq, Bool.not_eq_false',
        Bool.not_eq_false, decide_not, not_not, Bool.decide_eq_true, Bool.false_eq_true,
        Bool.true_eq_false, not_false_eq_true, not_true_eq_false, and_true, true_and,
        and_false, false_and, or_true, true_or, or_false, false_or, not_true,
        not_false_iff, iff_self, true_iff, iff_true, false_iff, iff_false, ite_self,
        decide_eq_decide, decide_False, decide_True, Bool.not_true, Bool.not_false]

theorem load64_INF : load64 (Tbl.INF.addr + 0) = 0x7FF0000000000000 := by rfl
theorem load64_ZERO : load64 (Tbl.ZERO.addr + 0) = 0 := by rfl

/-- C13: `fast_exp(+Inf)` is `+Inf` (bits `0x7FF0000000000000`) and `fast_exp(-Inf)` is `+0`
(bits `0`).  Both values are the constants `_INF` and `_ZERO` loaded at the end of
`L_2TAG_PACKET_9_0_2` and in `L_2TAG_PACKET_12_0_2`; the runs pass only through the
classification blocks `start`, `L_2TAG_PACKET_0_0_2`, `L_2TAG_PACKET_8_0_2` and
`L_2TAG_PACKET_9_0_2`, none of which computes on the value returned. -/
theorem fast_exp_inf (cpu : Cpu) (s : Machine) :
    (s.arg0 = 0x7FF0000000000000 →
      (fast_exp cpu s).result = 0x7FF0000000000000 ∧
      (fast_exp cpu s).result = load64 (Tbl.INF.addr + 0) ∧
      (fast_exp cpu s).trace = [Label.B1_5, Label.L_2TAG_PACKET_9_0_2,
        Label.L_2TAG_PACKET_8_0_2, Label.L_2TAG_PACKET_0_0_2, Label.start, Label.entry]
        ++ s.trace) ∧
    (s.arg0 = 0xFFF0000000000000 →
      (fast_exp cpu s).result = 0 ∧
      (fast_exp cpu s).result = load64 (Tbl.ZERO.addr + 0) ∧
      (fast_exp cpu s).trace = [Label.B1_5, Label.L_2TAG_PACKET_12_0_2,
        Label.L_2TAG_PACKET_9_0_2, Label.L_2TAG_PACKET_8_0_2, Label.L_2TAG_PACKET_0_0_2,
        Label.start, Label.entry] ++ s.trace) := by
  constructor
  · intro h
    obtain ⟨h1, h2⟩ := fast_exp_pos_inf_run cpu s h
    exact ⟨h1, by rw [h1, load64_INF], h2⟩
  · intro h
    obtain ⟨h1, h2⟩ := fast_exp_neg_inf_run cpu s h
    exact ⟨h1, by rw [h1, load64_ZERO], h2⟩

theorem fast_exp_inf_witness :
    (fast_exp Cpu.sample (Machine.init 0x7FF0000000000000 0)).result = 0x7FF0000000000000 ∧
    (fast_exp Cpu.sample (Machine.init 0xFFF0000000000000 0)).result = 0 :=
  ⟨((fast_exp_inf Cpu.sample (Machine.init 0x7FF0000000000000 0)).1 rfl).1,
    ((fast_exp_inf Cpu.sample (Machine.init 0xFFF0000000000000 0)).2 rfl).1⟩

end MacroAssembler

namespace MacroAssembler
open XReg GReg Machine

/-! ### `fast_exp` of NaNs -/

theorem fast_exp_nan_hi_run (cpu : Cpu) (s : Machine)
    (h1 : s.arg0 / 2 ^ 52 % 2048 = 2047) (h2 : s.arg0 / 2 ^ 32 % 2 ^ 20 ≠ 0) :
    (fast_exp cpu s).result = f64Quiet s.arg0 ∧
    (fast_exp cpu s).trace = [Label.B1_5, Label.L_2TAG_PACKET_11_0_2,
      Label.L_2TAG_PACKET_9_0_2, Label.L_2TAG_PACKET_8_0_2, Label.L_2TAG_PACKET_0_0_2,
      Label.start, Label.entry] ++ s.trace := by
  have hn : f64IsNaN s.arg0 = true := by
    simp only [f64IsNaN, f64Exp, f64Man, Nat.reducePow, decide_eq_true_eq] at h1 h2 ⊢
    omega
  simp only [Machine.io_eq_get, Nat.reducePow] at h1 h2 hn
  rw [
      fast_exp, fast_exp.exp_entry_eq, fast_exp.exp_start_eq, if_pos,
      fast_exp.exp_L_2TAG_PACKET_0_0_2_eq, if_pos, fast_exp.exp_L_2TAG_PACKET_8_0_2_eq,
      if_pos, fast_exp.exp_L_2TAG_PACKET_9_0_2_eq, if_pos,
      fast_exp.exp_L_2TAG_PACKET_11_0_2_eq, fast_exp.exp_B1_5_eq]
  · set_option maxRecDepth 8000 in
    simp only [
        ↓reduceIte, Nat.mod_mod, ↓fast_exp.exp_B1_5_1_sem,
        ↓fast_exp.exp_L_2TAG_PACKET_11_0_2_1_sem, ↓fast_exp.exp_L_2TAG_PACKET_9_0_2_1_sem,
        ↓fast_exp.exp_L_2TAG_PACKET_8_0_2_1_sem, ↓fast_exp.exp_L_2TAG_PACKET_0_0_2_1_sem,
        ↓fast_exp.exp_start_1_sem, ↓fast_exp.exp_entry_1_sem, ↓Machine.get_setx,
        ↓Machine.get_setg, ↓Machine.get_setstk, ↓Machine.get_enter, ↓Machine.get_setFlags,
        ↓Machine.trace_set, ↓Machine.get_ite, ↓Machine.trace_ite, ↓Machine.obs_eq_get,
        ↓Machine.flags_get, ↓Machine.flags_trace, ↓sem_get_1, ↓sem_get_2, ↓sem_get_3,
        ↓sem_get_4, ↓sem_trace_1, ↓sem_trace_2, ↓sem_trace_3, ↓sem_trace_4, ↓load_const,
        cc_iff, ea, and_imm, and_imm_left, ilog2_lit, or_eq_zero, or_mod32, or_lt_2p31,
        Nat.mod_mod, Nat.zero_or, Nat.or_zero, Nat.sub_zero, Nat.add_mod_right, lane_eq,
        Machine.io_eq_get, Nat.xor_self, Loc.x.injEq, Loc.g.injEq, Loc.m.injEq,
        Bool.toNat_eq_zero, Bool.toNat_eq_one, Nat.reducePow, Nat.reduceMul,
        Nat.reduceMod, Nat.reduceAdd, Nat.reduceSub, Nat.reduceDiv, Nat.reduceEqDiff,
        Nat.reduceLTLE, Nat.reduceLeDiff, Nat.reduceLT, Nat.reduceGT, Nat.reduceOr,
        Nat.reduceXor, reduceCtorEq, Bool.not_eq_true', Bool.not_eq_true,
        decide_eq_true_eq, decide_eq_false_iff_not, Bool.and_eq_true, Bool.or_eq_true,
        bne_iff_ne, beq_iff_eq, ne_eq, Bool.not_eq_false', Bool.not_eq_false, decide_not,
        not_not, Bool.decide_eq_true, Bool.false_eq_true, Bool.true_eq_false,
        not_false_eq_true, not_true_eq_false, and_true, true_and, and_false, false_and,
        or_true, true_or, or_false, false_or, not_true, not_false_iff, iff_self, true_iff,
        iff_true, false_iff, iff_false, ite_self, decide_eq_decide, decide_False,
        decide_True, Bool.not_true, Bool.not_false]
    rw [f64Add_of_isNaN _ _ hn]
    have := f64Quiet_lt (s.get (.x xmm0) % 18446744073709551616) (by omega)
    refine ⟨by omega, by simp⟩
  · set_option maxRecDepth 8000 in
    simp only [
        ↓reduceIte, ↓fast_exp.exp_L_2TAG_PACKET_9_0_2_1_sem,
        ↓fast_exp.exp_L_2TAG_PACKET_8_0_2_1_sem, ↓fast_exp.exp_L_2TAG_PACKET_0_0_2_1_sem,
        ↓fast_exp.exp_start_1_sem, ↓fast_exp.exp_entry_1_sem, ↓Machine.get_setx,
        ↓Machine.get_setg, ↓Machine.get_setstk, ↓Machine.get_enter, ↓Machine.get_setFlags,
        ↓Machine.trace_set, ↓Machine.get_ite, ↓Machine.trace_ite, ↓Machine.obs_eq_get,
        ↓Machine.flags_get, ↓Machine.flags_trace, ↓sem_get_1, ↓sem_get_2, ↓sem_get_3,
        ↓sem_get_4, ↓sem_trace_1, ↓sem_trace_2, ↓sem_trace_3, ↓sem_trace_4, ↓load_const,
        cc_iff, ea, and_imm, and_imm_left, ilog2_lit, or_eq_zero, or_mod32, or_lt_2p31,
        Nat.mod_mod, Nat.zero_or, Nat.or_zero, Nat.sub_zero, Nat.add_mod_right, lane_eq,
        Machine.io_eq_get, Nat.xor_self, Loc.x.injEq, Loc.g.injEq, Loc.m.injEq,
        Bool.toNat_eq_zero, Bool.toNat_eq_one, Nat.reducePow, Nat.reduceMul,
        Nat.reduceMod, Nat.reduceAdd, Nat.reduceSub, Nat.reduceDiv, Nat.reduceEqDiff,
        Nat.reduceLTLE, Nat.reduceLeDiff, Nat.reduceLT, Nat.reduceGT, Nat.reduceOr,
        Nat.reduceXor, reduceCtorEq, Bool.not_eq_true', Bool.not_eq_true,
        decide_eq_true_eq, decide_eq_false_iff_not, Bool.and_eq_true, Bool.or_eq_true,
        bne_iff_ne, beq_iff_eq, ne_eq, Bool.not_eq_false', Bool.not_eq_false, decide_not,
        not_not, Bool.decide_eq_true, Bool.false_eq_true, Bool.true_eq_false,
        not_false_eq_true, not_true_eq_false, and_true, true_and, and_false, false_and,
        or_true, true_or, or_false, false_or, not_true, not_false_iff, iff_self, true_iff,
        iff_true, false_iff, iff_false, ite_self, decide_eq_decide, decide_False,
        decide_True, Bool.not_true, Bool.not_false]
    all_goals omega
  · set_option maxRecDepth 8000 in
    simp only [
        ↓reduceIte, ↓fast_exp.exp_L_2TAG_PACKET_8_0_2_1_sem,
        ↓fast_exp.exp_L_2TAG_PACKET_0_0_2_1_sem, ↓fast_exp.exp_start_1_sem,
        ↓fast_exp.exp_entry_1_sem, ↓Machine.get_setx, ↓Machine.get_setg,
        ↓Machine.get_setstk, ↓Machine.get_enter, ↓Machine.get_setFlags,
        ↓Machine.trace_set, ↓Machine.get_ite, ↓Machine.trace_ite, ↓Machine.obs_eq_get,
        ↓Machine.flags_get, ↓Machine.flags_trace, ↓sem_get_1, ↓sem_get_2, ↓sem_get_3,
        ↓sem_get_4, ↓sem_trace_1, ↓sem_trace_2, ↓sem_trace_3, ↓sem_trace_4, ↓load_const,
        cc_iff, ea, and_imm, and_imm_left, ilog2_lit, or_eq_zero, or_mod32, or_lt_2p31,
        Nat.mod_mod, Nat.zero_or, Nat.or_zero, Nat.sub_zero, Nat.add_mod_right, lane_eq,
        Machine.io_eq_get, Nat.xor_self, Loc.x.injEq, Loc.g.injEq, Loc.m.injEq,
        Bool.toNat_eq_zero, Bool.toNat_eq_one, Nat.reducePow, Nat.reduceMul,
        Nat.reduceMod, Nat.reduceAdd, Nat.reduceSub, Nat.reduceDiv, Nat.reduceEqDiff,
        Nat.reduceLTLE, Nat.reduceLeDiff, Nat.reduceLT, Nat.reduceGT, Nat.reduceOr,
        Nat.reduceXor, reduceCtorEq, Bool.not_eq_true', Bool.not_eq_true,
        decide_eq_true_eq, decide_eq_false_iff_not, Bool.and_eq_true, Bool.or_eq_true,
        bne_iff_ne, beq_iff_eq, ne_eq, Bool.not_eq_false', Bool.not_eq_false, decide_not,
        not_not, Bool.decide_eq_true, Bool.false_eq_true, Bool.true_eq_false,
        not_false_eq_true, not_true_eq_false, and_true, true_and, and_false, false_and,
        or_true, true_or, or_false, false_or, not_true, not_false_iff, iff_self, true_iff,
        iff_true, false_iff, iff_false, ite_self, decide_eq_decide, decide_False,
        decide_True, Bool.not_true, Bool.not_false]
    all_goals omega
  · set_option maxRecDepth 8000 in
    simp only [
        ↓reduceIte, ↓fast_exp.exp_L_2TAG_PACKET_0_0_2_1_sem, ↓fast_exp.exp_start_1_sem,
        ↓fast_exp.exp_entry_1_sem, ↓Machine.get_setx, ↓Machine.get_setg,
        ↓Machine.get_setstk, ↓Machine.get_enter, ↓Machine.get_setFlags,
        ↓Machine.trace_set, ↓Machine.get_ite, ↓Machine.trace_ite, ↓Machine.obs_eq_get,
        ↓Machine.flags_get, ↓Machine.flags_trace, ↓sem_get_1, ↓sem_get_2, ↓sem_get_3,
        ↓sem_get_4, ↓sem_trace_1, ↓sem_trace_2, ↓sem_trace_3, ↓sem_trace_4, ↓load_const,
        cc_iff, ea, and_imm, and_imm_left, ilog2_lit, or_eq_zero, or_mod32, or_lt_2p31,
        Nat.mod_mod, Nat.zero_or, Nat.or_zero, Nat.sub_zero, Nat.add_mod_right, lane_eq,
        Machine.io_eq_get, Nat.xor_self, Loc.x.injEq, Loc.g.injEq, Loc.m.injEq,
        Bool.toNat_eq_zero, Bool.toNat_eq_one, Nat.reducePow, Nat.reduceMul,
        Nat.reduceMod, Nat.reduceAdd, Nat.reduceSub, Nat.reduceDiv, Nat.reduceEqDiff,
        Nat.reduceLTLE, Nat.reduceLeDiff, Nat.reduceLT, Nat.reduceGT, Nat.reduceOr,
        Nat.reduceXor, reduceCtorEq, Bool.not_eq_true', Bool.not_eq_true,
        decide_eq_true_eq, decide_eq_false_iff_not, Bool.and_eq_true, Bool.or_eq_true,
        bne_iff_ne, beq_iff_eq, ne_eq, Bool.not_eq_false', Bool.not_eq_false, decide_not,
        not_not, Bool.decide_eq_true, Bool.false_eq_true, Bool.true_eq_false,
        not_false_eq_true, not_true_eq_false, and_true, true_and, and_false, false_and,
        or_true, true_or, or_false, false_or, not_true, not_false_iff, iff_self, true_iff,
        iff_true, false_iff, iff_false, ite_self, decide_eq_decide, decide_False,
        decide_True, Bool.not_true, Bool.not_false]
    all_goals omega
  · set_option maxRecDepth 8000 in
    simp only [
        ↓reduceIte, or_mod32, Nat.mod_mod, or_lt_2p31, pextrw3_mk,
        ↓fast_exp.exp_start_1_sem, ↓fast_exp.exp_entry_1_sem, ↓Machine.get_setx,
        ↓Machine.get_setg, ↓Machine.get_setstk, ↓Machine.get_enter, ↓Machine.get_setFlags,
        ↓Machine.trace_set, ↓Machine.get_ite, ↓Machine.trace_ite, ↓Machine.obs_eq_get,
        ↓Machine.flags_get, ↓Machine.flags_trace, ↓sem_get_1, ↓sem_get_2, ↓sem_get_3,
        ↓sem_get_4, ↓sem_trace_1, ↓sem_trace_2, ↓sem_trace_3, ↓sem_trace_4, ↓load_const,
        cc_iff, ea, and_imm, and_imm_left, ilog2_lit, or_eq_zero, or_mod32, or_lt_2p31,
        Nat.mod_mod, Nat.zero_or, Nat.or_zero, Nat.sub_zero, Nat.add_mod_right, lane_eq,
        Machine.io_eq_get, Nat.xor_self, Loc.x.injEq, Loc.g.injEq, Loc.m.injEq,
        Bool.toNat_eq_zero, Bool.toNat_eq_one, Nat.reducePow, Nat.reduceMul,
        Nat.reduceMod, Nat.reduceAdd, Nat.reduceSub, Nat.reduceDiv, Nat.reduceEqDiff,
        Nat.reduceLTLE, Nat.reduceLeDiff, Nat.reduceLT, Nat.reduceGT, Nat.reduceOr,
        Nat.reduceXor, reduceCtorEq, Bool.not_eq_true', Bool.not_eq_true,
        decide_eq_true_eq, decide_eq_false_iff_not, Bool.and_eq_true, Bool.or_eq_true,
        bne_iff_ne, beq_iff_eq, ne_eq, Bool.not_eq_false', Bool.not_eq_false, decide_not,
        not_not, Bool.decide_eq_true, Bool.false_eq_true, Bool.true_eq_false,
        not_false_eq_true, not_true_eq_false, and_true, true_and, and_false, false_and,
        or_true, true_or, or_false, false_or, not_true, not_false_iff, iff_self, true_iff,
        iff_true, false_iff, iff_false, ite_self, decide_eq_decide, decide_False,
        decide_True, Bool.not_true, Bool.not_false]
    all_goals omega

theorem fast_exp_nan_lo_run (cpu : Cpu) (s : Machine)
    (h1 : s.arg0 / 2 ^ 52 % 2048 = 2047) (h2 : s.arg0 / 2 ^ 32 % 2 ^ 20 = 0)
    (h3 : s.arg0 % 2 ^ 32 ≠ 0) :
    (fast_exp cpu s).result = f64Quiet s.arg0 ∧
    (fast_exp cpu s).trace = [Label.B1_5, Label.L_2TAG_PACKET_11_0_2,
      Label.L_2TAG_PACKET_9_0_2, Label.L_2TAG_PACKET_8_0_2, Label.L_2TAG_PACKET_0_0_2,
      Label.start, Label.entry] ++ s.trace := by
  have hn : f64IsNaN s.arg0 = true := by
    simp only [f64IsNaN, f64Exp, f64Man, Nat.reducePow, decide_eq_true_eq] at h1 h2 h3 ⊢
    omega
  simp only [Machine.io_eq_get, Nat.reducePow] at h1 h2 h3 hn
  rw [
      fast_exp, fast_exp.exp_entry_eq, fast_exp.exp_start_eq, if_pos,
      fast_exp.exp_L_2TAG_PACKET_0_0_2_eq, if_pos, fast_exp.exp_L_2TAG_PACKET_8_0_2_eq,
      if_pos, fast_exp.exp_L_2TAG_PACKET_9_0_2_eq, if_neg, if_pos,
      fast_exp.exp_L_2TAG_PACKET_11_0_2_eq, fast_exp.exp_B1_5_eq]
  · set_option maxRecDepth 8000 in
    simp only [
        ↓reduceIte, Nat.mod_mod, ↓fast_exp.exp_B1_5_1_sem,
        ↓fast_exp.exp_L_2TAG_PACKET_11_0_2_1_sem, ↓fast_exp.exp_L_2TAG_PACKET_9_0_2_2_sem,
        ↓fast_exp.exp_L_2TAG_PACKET_9_0_2_1_sem, ↓fast_exp.exp_L_2TAG_PACKET_8_0_2_1_sem,
        ↓fast_exp.exp_L_2TAG_PACKET_0_0_2_1_sem, ↓fast_exp.exp_start_1_sem,
        ↓fast_exp.exp_entry_1_sem, ↓Machine.get_setx, ↓Machine.get_setg,
        ↓Machine.get_setstk, ↓Machine.get_enter, ↓Machine.get_setFlags,
        ↓Machine.trace_set, ↓Machine.get_ite, ↓Machine.trace_ite, ↓Machine.obs_eq_get,
        ↓Machine.flags_get, ↓Machine.flags_trace, ↓sem_get_1, ↓sem_get_2, ↓sem_get_3,
        ↓sem_get_4, ↓sem_trace_1, ↓sem_trace_2, ↓sem_trace_3, ↓sem_trace_4, ↓load_const,
        cc_iff, ea, and_imm, and_imm_left, ilog2_lit, or_eq_zero, or_mod32, or_lt_2p31,
        Nat.mod_mod, Nat.zero_or, Nat.or_zero, Nat.sub_zero, Nat.add_mod_right, lane_eq,
        Machine.io_eq_get, Nat.xor_self, Loc.x.injEq, Loc.g.injEq, Loc.m.injEq,
        Bool.toNat_eq_zero, Bool.toNat_eq_one, Nat.reducePow, Nat.reduceMul,
        Nat.reduceMod, Nat.reduceAdd, Nat.reduceSub, Nat.reduceDiv, Nat.reduceEqDiff,
        Nat.reduceLTLE, Nat.reduceLeDiff, Nat.reduceLT, Nat.reduceGT, Nat.reduceOr,
        Nat.reduceXor, reduceCtorEq, Bool.not_eq_true', Bool.not_eq_true,
        decide_eq_true_eq, decide_eq_false_iff_not, Bool.and_eq_true, Bool.or_eq_true,
        bne_iff_ne, beq_iff_eq, ne_eq, Bool.not_eq_false', Bool.not_eq_false, decide_not,
        not_not, Bool.decide_eq_true, Bool.false_eq_true, Bool.true_eq_false,
        not_false_eq_true, not_true_eq_false, and_true, true_and, and_false, false_and,
        or_true, true_or, or_false, false_or, not_true, not_false_iff, iff_self, true_iff,
        iff_true, false_iff, iff_false, ite_self, decide_eq_decide, decide_False,
        decide_True, Bool.not_true, Bool.not_false]
    rw [f64Add_of_isNaN _ _ hn]
    have := f64Quiet_lt (s.get (.x xmm0) % 18446744073709551616) (by omega)
    refine ⟨by omega, by simp⟩
  · set_option maxRecDepth 8000 in
    simp only [
        ↓reduceIte, ↓fast_exp.exp_L_2TAG_PACKET_9_0_2_2_sem,
        ↓fast_exp.exp_L_2TAG_PACKET_9_0_2_1_sem, ↓fast_exp.exp_L_2TAG_PACKET_8_0_2_1_sem,
        ↓fast_exp.exp_L_2TAG_PACKET_0_0_2_1_sem, ↓fast_exp.exp_start_1_sem,
        ↓fast_exp.exp_entry_1_sem, ↓Machine.get_setx, ↓Machine.get_setg,
        ↓Machine.get_setstk, ↓Machine.get_enter, ↓Machine.get_setFlags,
        ↓Machine.trace_set, ↓Machine.get_ite, ↓Machine.trace_ite, ↓Machine.obs_eq_get,
        ↓Machine.flags_get, ↓Machine.flags_trace, ↓sem_get_1, ↓sem_get_2, ↓sem_get_3,
        ↓sem_get_4, ↓sem_trace_1, ↓sem_trace_2, ↓sem_trace_3, ↓sem_trace_4, ↓load_const,
        cc_iff, ea, and_imm, and_imm_left, ilog2_lit, or_eq_zero, or_mod32, or_lt_2p31,
        Nat.mod_mod, Nat.zero_or, Nat.or_zero, Nat.sub_zero, Nat.add_mod_right, lane_eq,
        Machine.io_eq_get, Nat.xor_self, Loc.x.injEq, Loc.g.injEq, Loc.m.injEq,
        Bool.toNat_eq_zero, Bool.toNat_eq_one, Nat.reducePow, Nat.reduceMul,
        Nat.reduceMod, Nat.reduceAdd, Nat.reduceSub, Nat.reduceDiv, Nat.reduceEqDiff,
        Nat.reduceLTLE, Nat.reduceLeDiff, Nat.reduceLT, Nat.reduceGT, Nat.reduceOr,
        Nat.reduceXor, reduceCtorEq, Bool.not_eq_true', Bool.not_eq_true,
        decide_eq_true_eq, decide_eq_false_iff_not, Bool.and_eq_true, Bool.or_eq_true,
        bne_iff_ne, beq_iff_eq, ne_eq, Bool.not_eq_false', Bool.not_eq_false, decide_not,
        not_not, Bool.decide_eq_true, Bool.false_eq_true, Bool.true_eq_false,
        not_false_eq_true, not_true_eq_false, and_true, true_and, and_false, false_and,
        or_true, true_or, or_false, false_or, not_true, not_false_iff, iff_self, true_iff,
        iff_true, false_iff, iff_false, ite_self, decide_eq_decide, decide_False,
        decide_True, Bool.not_true, Bool.not_false]
    all_goals omega
  · set_option maxRecDepth 8000 in
    simp only [
        ↓reduceIte, ↓fast_exp.exp_L_2TAG_PACKET_9_0_2_1_sem,
        ↓fast_exp.exp_L_2TAG_PACKET_8_0_2_1_sem, ↓fast_exp.exp_L_2TAG_PACKET_0_0_2_1_sem,
        ↓fast_exp.exp_start_1_sem, ↓fast_exp.exp_entry_1_sem, ↓Machine.get_setx,
        ↓Machine.get_setg, ↓Machine.get_setstk, ↓Machine.get_enter, ↓Machine.get_setFlags,
        ↓Machine.trace_set, ↓Machine.get_ite, ↓Machine.trace_ite, ↓Machine.obs_eq_get,
        ↓Machine.flags_get, ↓Machine.flags_trace, ↓sem_get_1, ↓sem_get_2, ↓sem_get_3,
        ↓sem_get_4, ↓sem_trace_1, ↓sem_trace_2, ↓sem_trace_3, ↓sem_trace_4, ↓load_const,
        cc_iff, ea, and_imm, and_imm_left, ilog2_lit, or_eq_zero, or_mod32, or_lt_2p31,
        Nat.mod_mod, Nat.zero_or, Nat.or_zero, Nat.sub_zero, Nat.add_mod_right, lane_eq,
        Machine.io_eq_get, Nat.xor_self, Loc.x.injEq, Loc.g.injEq, Loc.m.injEq,
        Bool.toNat_eq_zero, Bool.toNat_eq_one, Nat.reducePow, Nat.reduceMul,
        Nat.reduceMod, Nat.reduceAdd, Nat.reduceSub, Nat.reduceDiv, Nat.reduceEqDiff,
        Nat.reduceLTLE, Nat.reduceLeDiff, Nat.reduceLT, Nat.reduceGT, Nat.reduceOr,
        Nat.reduceXor, reduceCtorEq, Bool.not_eq_true', Bool.not_eq_true,
        decide_eq_true_eq, decide_eq_false_iff_not, Bool.and_eq_true, Bool.or_eq_true,
        bne_iff_ne, beq_iff_eq, ne_eq, Bool.not_eq_false', Bool.not_eq_false, decide_not,
        not_not, Bool.decide_eq_true, Bool.false_eq_true, Bool.true_eq_false,
        not_false_eq_true, not_true_eq_false, and_true, true_and, and_false, false_and,
        or_true, true_or, or_false, false_or, not_true, not_false_iff, iff_self, true_iff,
        iff_true, false_iff, iff_false, ite_self, decide_eq_decide, decide_False,
        decide_True, Bool.not_true, Bool.not_false]
    all_goals omega
  · set_option maxRecDepth 8000 in
    simp only [
        ↓reduceIte, ↓fast_exp.exp_L_2TAG_PACKET_8_0_2_1_sem,
        ↓fast_exp.exp_L_2TAG_PACKET_0_0_2_1_sem, ↓fast_exp.exp_start_1_sem,
        ↓fast_exp.exp_entry_1_sem, ↓Machine.get_setx, ↓Machine.get_setg,
        ↓Machine.get_setstk, ↓Machine.get_enter, ↓Machine.get_setFlags,
        ↓Machine.trace_set, ↓Machine.get_ite, ↓Machine.trace_ite, ↓Machine.obs_eq_get,
        ↓Machine.flags_get, ↓Machine.flags_trace, ↓sem_get_1, ↓sem_get_2, ↓sem_get_3,
        ↓sem_get_4, ↓sem_trace_1, ↓sem_trace_2, ↓sem_trace_3, ↓sem_trace_4, ↓load_const,
        cc_iff, ea, and_imm, and_imm_left, ilog2_lit, or_eq_zero, or_mod32, or_lt_2p31,
        Nat.mod_mod, Nat.zero_or, Nat.or_zero, Nat.sub_zero, Nat.add_mod_right, lane_eq,
        Machine.io_eq_get, Nat.xor_self, Loc.x.injEq, Loc.g.injEq, Loc.m.injEq,
        Bool.toNat_eq_zero, Bool.toNat_eq_one, Nat.reducePow, Nat.reduceMul,
        Nat.reduceMod, Nat.reduceAdd, Nat.reduceSub, Nat.reduceDiv, Nat.reduceEqDiff,
        Nat.reduceLTLE, Nat.reduceLeDiff, Nat.reduceLT, Nat.reduceGT, Nat.reduceOr,
        Nat.reduceXor, reduceCtorEq, Bool.not_eq_true', Bool.not_eq_true,
        decide_eq_true_eq, decide_eq_false_iff_not, Bool.and_eq_true, Bool.or_eq_true,
        bne_iff_ne, beq_iff_eq, ne_eq, Bool.not_eq_false', Bool.not_eq_false, decide_not,
        not_not, Bool.decide_eq_true, Bool.false_eq_true, Bool.true_eq_false,
        not_false_eq_true, not_true_eq_false, and_true, true_and, and_false, false_and,
        or_true, true_or, or_false, false_or, not_true, not_false_iff, iff_self, true_iff,
        iff_true, false_iff, iff_false, ite_self, decide_eq_decide, decide_False,
        decide_True, Bool.not_true, Bool.not_false]
    all_goals omega
  · set_option maxRecDepth 8000 in
    simp only [
        ↓reduceIte, ↓fast_exp.exp_L_2TAG_PACKET_0_0_2_1_sem, ↓fast_exp.exp_start_1_sem,
        ↓fast_exp.exp_entry_1_sem, ↓Machine.get_setx, ↓Machine.get_setg,
        ↓Machine.get_setstk, ↓Machine.get_enter, ↓Machine.get_setFlags,
        ↓Machine.trace_set, ↓Machine.get_ite, ↓Machine.trace_ite, ↓Machine.obs_eq_get,
        ↓Machine.flags_get, ↓Machine.flags_trace, ↓sem_get_1, ↓sem_get_2, ↓sem_get_3,
        ↓sem_get_4, ↓sem_trace_1, ↓sem_trace_2, ↓sem_trace_3, ↓sem_trace_4, ↓load_const,
        cc_iff, ea, and_imm, and_imm_left, ilog2_lit, or_eq_zero, or_mod32, or_lt_2p31,
        Nat.mod_mod, Nat.zero_or, Nat.or_zero, Nat.sub_zero, Nat.add_mod_right, lane_eq,
        Machine.io_eq_get, Nat.xor_self, Loc.x.injEq, Loc.g.injEq, Loc.m.injEq,
        Bool.toNat_eq_zero, Bool.toNat_eq_one, Nat.reducePow, Nat.reduceMul,
        Nat.reduceMod, Nat.reduceAdd, Nat.reduceSub, Nat.reduceDiv, Nat.reduceEqDiff,
        Nat.reduceLTLE, Nat.reduceLeDiff, Nat.reduceLT, Nat.reduceGT, Nat.reduceOr,
        Nat.reduceXor, reduceCtorEq, Bool.not_eq_true', Bool.not_eq_true,
        decide_eq_true_eq, decide_eq_false_iff_not, Bool.and_eq_true, Bool.or_eq_true,
        bne_iff_ne, beq_iff_eq, ne_eq, Bool.not_eq_false', Bool.not_eq_false, decide_not,
        not_not, Bool.decide_eq_true, Bool.false_eq_true, Bool.true_eq_false,
        not_false_eq_true, not_true_eq_false, and_true, true_and, and_false, false_and,
        or_true, true_or, or_false, false_or, not_true, not_false_iff, iff_self, true_iff,
        iff_true, false_iff, iff_false, ite_self, decide_eq_decide, decide_False,
        decide_True, Bool.not_true, Bool.not_false]
    all_goals omega
  · set_option maxRecDepth 8000 in
    simp only [
        ↓reduceIte, or_mod32, Nat.mod_mod, or_lt_2p31, pextrw3_mk,
        ↓fast_exp.exp_start_1_sem, ↓fast_exp.exp_entry_1_sem, ↓Machine.get_setx,
        ↓Machine.get_setg, ↓Machine.get_setstk, ↓Machine.get_enter, ↓Machine.get_setFlags,
        ↓Machine.trace_set, ↓Machine.get_ite, ↓Machine.trace_ite, ↓Machine.obs_eq_get,
        ↓Machine.flags_get, ↓Machine.flags_trace, ↓sem_get_1, ↓sem_get_2, ↓sem_get_3,
        ↓sem_get_4, ↓sem_trace_1, ↓sem_trace_2, ↓sem_trace_3, ↓sem_trace_4, ↓load_const,
        cc_iff, ea, and_imm, and_imm_left, ilog2_lit, or_eq_zero, or_mod32, or_lt_2p31,
        Nat.mod_mod, Nat.zero_or, Nat.or_zero, Nat.sub_zero, Nat.add_mod_right, lane_eq,
        Machine.io_eq_get, Nat.xor_self, Loc.x.injEq, Loc.g.injEq, Loc.m.injEq,
        Bool.toNat_eq_zero, Bool.toNat_eq_one, Nat.reducePow, Nat.reduceMul,
        Nat.reduceMod, Nat.reduceAdd, Nat.reduceSub, Nat.reduceDiv, Nat.reduceEqDiff,
        Nat.reduceLTLE, Nat.reduceLeDiff, Nat.reduceLT, Nat.reduceGT, Nat.reduceOr,
        Nat.reduceXor, reduceCtorEq, Bool.not_eq_true', Bool.not_eq_true,
        decide_eq_true_eq, decide_eq_false_iff_not, Bool.and_eq_true, Bool.or_eq_true,
        bne_iff_ne, beq_iff_eq, ne_eq, Bool.not_eq_false', Bool.not_eq_false, decide_not,
        not_not, Bool.decide_eq_true, Bool.false_eq_true, Bool.true_eq_false,
        not_false_eq_true, not_true_eq_false, and_true, true_and, and_false, false_and,
        or_true, true_or, or_false, false_or, not_true, not_false_iff, iff_self, true_iff,
        iff_true, false_iff, iff_false, ite_self, decide_eq_decide, decide_False,
        decide_True, Bool.not_true, Bool.not_false]
    all_goals omega

/-- C14: for every NaN argument (exponent field all ones, non-zero mantissa, either sign)
`fast_exp` returns a NaN; the value is the sum `x + x` formed in `L_2TAG_PACKET_11_0_2`,
that is the argument with its quiet bit set. -/
theorem fast_exp_nan (cpu : Cpu) (s : Machine) (h : f64IsNaN s.arg0 = true) :
    f64IsNaN (fast_exp cpu s).result = true ∧
    (fast_exp cpu s).result = f64Add s.arg0 s.arg0 ∧
    Label.L_2TAG_PACKET_11_0_2 ∈ (fast_exp cpu s).trace := by
  have h0 := h
  simp only [f64IsNaN, f64Exp, f64Man, Nat.reducePow, decide_eq_true_eq] at h0
  have key : (fast_exp cpu s).result = f64Quiet s.arg0 ∧
      (fast_exp cpu s).trace = [Label.B1_5, Label.L_2TAG_PACKET_11_0_2,
        Label.L_2TAG_PACKET_9_0_2, Label.L_2TAG_PACKET_8_0_2, Label.L_2TAG_PACKET_0_0_2,
        Label.start, Label.entry] ++ s.trace := by
    by_cases h2 : s.arg0 / 2 ^ 32 % 2 ^ 20 = 0
    · exact fast_exp_nan_lo_run cpu s h0.1 h2 (by omega)
    · exact fast_exp_nan_hi_run cpu s h0.1 h2
  refine ⟨?_, ?_, ?_⟩
  · rw [key.1]
    exact f64Quiet_isNaN _ h
  · rw [key.1, f64Add_of_isNaN _ _ h]
  · rw [key.2]
    simp

theorem fast_exp_nan_witness :
    f64IsNaN (Machine.init 0x7FF0000000000001 0).arg0 = true ∧
    f64IsNaN (fast_exp Cpu.sample (Machine.init 0x7FF0000000000001 0)).result = true :=
  ⟨by decide, (fast_exp_nan Cpu.sample (Machine.init 0x7FF0000000000001 0) (by decide)).1⟩

end MacroAssembler

namespace MacroAssembler
open XReg GReg Machine

/-! ### `fast_exp` of subnormal arguments and zeros -/

theorem f64Add_subnormal_one (x : Nat) (he : f64Exp x = 0) :
    f64Add x 0x3FF0000000000000 = 0x3FF0000000000000 := by
  have he' := he
  simp only [f64Exp] at he'
  have n1 : f64IsNaN x = false := by simp [f64IsNaN, he]
  have n2 : f64IsInf x = false := by simp [f64IsInf, he]
  have e1 : f64E x = 1 := by simp [f64E, he]
  have s1 : f64Sig x = x % 2 ^ 52 := by simp [f64Sig, he, f64Man]
  have n3 : f64IsNaN 0x3FF0000000000000 = false := by decide
  have n4 : f64IsInf 0x3FF0000000000000 = false := by decide
  have e2 : f64E 0x3FF0000000000000 = 1023 := by decide
  have s2 : f64Sig 0x3FF0000000000000 = 2 ^ 52 := by decide
  have g2 : f64Sign 0x3FF0000000000000 = 0 := by decide
  have hm : x % 2 ^ 52 < 2 ^ 52 := Nat.mod_lt _ (Nat.two_pow_pos 52)
  unfold f64Add f64AddCore
  simp only [n1, n2, n3, n4, e1, e2, s1, s2, g2, Bool.false_eq_true, if_false, false_and]
  have hmin : min 1 1023 = 1 := rfl
  have h1022 : 1023 - 1 = 1022 := rfl
  have h2926 : 1 + 2925 = 2926 := rfl
  have hB : (2 : Nat) ^ 52 * 2 ^ 1022 = 2 ^ 1074 := by rw [← Nat.pow_add]
  simp only [hmin, Nat.sub_self, Nat.pow_zero, Nat.mul_one, h1022, h2926, hB]
  by_cases hs : f64Sign x = 0
  · rw [if_pos hs, hs]
    rw [roundPack_of 0 (x % 2 ^ 52 + 2 ^ 1074) 2926 1074 3948 (2 ^ 52) (by omega) (by omega)
      (by omega) (by omega) ?_ (by omega)]
    · omega
    · rw [if_neg (by omega)]
      rw [rne_eq (x % 2 ^ 52 + 2 ^ 1074) 1022 (2 ^ 52) (x % 2 ^ 52) (by omega) (by omega)
        (by omega)]
      rw [if_neg (by omega)]
  · rw [if_neg hs, if_neg (by omega)]
    by_cases h0 : x % 2 ^ 52 = 0
    · rw [h0, if_pos (by omega)]
      rw [roundPack_of 0 (2 ^ 1074 - 0) 2926 1074 3948 (2 ^ 52) (by omega) (by omega)
        (by omega) (by omega) ?_ (by omega)]
      · omega
      · rw [if_neg (by omega)]
        rw [rne_eq (2 ^ 1074 - 0) 1022 (2 ^ 52) 0 (by omega) (by omega) (by omega)]
        rw [if_neg (by omega)]
    · rw [if_pos (by omega)]
      rw [roundPack_of 0 (2 ^ 1074 - x % 2 ^ 52) 2926 1073 3947 (2 ^ 53) (by omega) (by omega)
        (by omega) (by omega) ?_ (by omega)]
      · omega
      · rw [if_neg (by omega)]
        rw [rne_eq (2 ^ 1074 - x % 2 ^ 52) 1021 (2 ^ 53 - 1) (2 ^ 1021 - x % 2 ^ 52) (by omega)
          (by omega) (by omega)]
        rw [if_pos (by omega)]
        omega

theorem fast_exp_tiny_run (cpu : Cpu) (s : Machine) (he : f64Exp s.arg0 = 0) :
    (fast_exp cpu s).result = 0x3FF0000000000000 ∧
    (fast_exp cpu s).trace = [Label.B1_5, Label.L_2TAG_PACKET_0_0_2, Label.start, Label.entry]
      ++ s.trace := by
  have h1 := he
  simp only [f64Exp, Machine.io_eq_get, Nat.reducePow] at h1
  simp only [Machine.io_eq_get, Nat.reducePow] at he
  rw [
      fast_exp, fast_exp.exp_entry_eq, fast_exp.exp_start_eq, if_pos,
      fast_exp.exp_L_2TAG_PACKET_0_0_2_eq, if_neg, fast_exp.exp_B1_5_eq]
  · set_option maxRecDepth 8000 in
    simp only [
        ↓reduceIte, Nat.add_mul_mod_self_left, Nat.mod_mod, f64Add_subnormal_one _ he,
        ↓fast_exp.exp_B1_5_1_sem, ↓fast_exp.exp_L_2TAG_PACKET_0_0_2_2_sem,
        ↓fast_exp.exp_L_2TAG_PACKET_0_0_2_1_sem, ↓fast_exp.exp_start_1_sem,
        ↓fast_exp.exp_entry_1_sem, ↓Machine.get_setx, ↓Machine.get_setg,
        ↓Machine.get_setstk, ↓Machine.get_enter, ↓Machine.get_setFlags,
        ↓Machine.trace_set, ↓Machine.get_ite, ↓Machine.trace_ite, ↓Machine.obs_eq_get,
        ↓Machine.flags_get, ↓Machine.flags_trace, ↓sem_get_1, ↓sem_get_2, ↓sem_get_3,
        ↓sem_get_4, ↓sem_trace_1, ↓sem_trace_2, ↓sem_trace_3, ↓sem_trace_4, ↓load_const,
        cc_iff, ea, and_imm, and_imm_left, ilog2_lit, or_eq_zero, or_mod32, or_lt_2p31,
        Nat.mod_mod, Nat.zero_or, Nat.or_zero, Nat.sub_zero, Nat.add_mod_right, lane_eq,
        Machine.io_eq_get, Nat.xor_self, Loc.x.injEq, Loc.g.injEq, Loc.m.injEq,
        Bool.toNat_eq_zero, Bool.toNat_eq_one, Nat.reducePow, Nat.reduceMul,
        Nat.reduceMod, Nat.reduceAdd, Nat.reduceSub, Nat.reduceDiv, Nat.reduceEqDiff,
        Nat.reduceLTLE, Nat.reduceLeDiff, Nat.reduceLT, Nat.reduceGT, Nat.reduceOr,
        Nat.reduceXor, reduceCtorEq, Bool.not_eq_true', Bool.not_eq_true,
        decide_eq_true_eq, decide_eq_false_iff_not, Bool.and_eq_true, Bool.or_eq_true,
        bne_iff_ne, beq_iff_eq, ne_eq, Bool.not_eq_false', Bool.not_eq_false, decide_not,
        not_not, Bool.decide_eq_true, Bool.false_eq_true, Bool.true_eq_false,
        not_false_eq_true, not_true_eq_false, and_true, true_and, and_false, false_and,
        or_true, true_or, or_false, false_or, not_true, not_false_iff, iff_self, true_iff,
        iff_true, false_iff, iff_false, ite_self, decide_eq_decide, decide_False,
        decide_True, Bool.not_true, Bool.not_false]
    simp
  · set_option maxRecDepth 8000 in
    simp only [
        ↓reduceIte, ↓fast_exp.exp_L_2TAG_PACKET_0_0_2_1_sem, ↓fast_exp.exp_start_1_sem,
        ↓fast_exp.exp_entry_1_sem, ↓Machine.get_setx, ↓Machine.get_setg,
        ↓Machine.get_setstk, ↓Machine.get_enter, ↓Machine.get_setFlags,
        ↓Machine.trace_set, ↓Machine.get_ite, ↓Machine.trace_ite, ↓Machine.obs_eq_get,
        ↓Machine.flags_get, ↓Machine.flags_trace, ↓sem_get_1, ↓sem_get_2, ↓sem_get_3,
        ↓sem_get_4, ↓sem_trace_1, ↓sem_trace_2, ↓sem_trace_3, ↓sem_trace_4, ↓load_const,
        cc_iff, ea, and_imm, and_imm_left, ilog2_lit, or_eq_zero, or_mod32, or_lt_2p31,
        Nat.mod_mod, Nat.zero_or, Nat.or_zero, Nat.sub_zero, Nat.add_mod_right, lane_eq,
        Machine.io_eq_get, Nat.xor_self, Loc.x.injEq, Loc.g.injEq, Loc.m.injEq,
        Bool.toNat_eq_zero, Bool.toNat_eq_one, Nat.reducePow, Nat.reduceMul,
        Nat.reduceMod, Nat.reduceAdd, Nat.reduceSub, Nat.reduceDiv, Nat.reduceEqDiff,
        Nat.reduceLTLE, Nat.reduceLeDiff, Nat.reduceLT, Nat.reduceGT, Nat.reduceOr,
        Nat.reduceXor, reduceCtorEq, Bool.not_eq_true', Bool.not_eq_true,
        decide_eq_true_eq, decide_eq_false_iff_not, Bool.and_eq_true, Bool.or_eq_true,
        bne_iff_ne, beq_iff_eq, ne_eq, Bool.not_eq_false', Bool.not_eq_false, decide_not,
        not_not, Bool.decide_eq_true, Bool.false_eq_true, Bool.true_eq_false,
        not_false_eq_true, not_true_eq_false, and_true, true_and, and_false, false_and,
        or_true, true_or, or_false, false_or, not_true, not_false_iff, iff_self, true_iff,
        iff_true, false_iff, iff_false, ite_self, decide_eq_decide, decide_False,
        decide_True, Bool.not_true, Bool.not_false]
    all_goals omega
  · set_option maxRecDepth 8000 in
    simp only [
        ↓reduceIte, or_mod32, Nat.mod_mod, or_lt_2p31, pextrw3_mk,
        ↓fast_exp.exp_start_1_sem, ↓fast_exp.exp_entry_1_sem, ↓Machine.get_setx,
        ↓Machine.get_setg, ↓Machine.get_setstk, ↓Machine.get_enter, ↓Machine.get_setFlags,
        ↓Machine.trace_set, ↓Machine.get_ite, ↓Machine.trace_ite, ↓Machine.obs_eq_get,
        ↓Machine.flags_get, ↓Machine.flags_trace, ↓sem_get_1, ↓sem_get_2, ↓sem_get_3,
        ↓sem_get_4, ↓sem_trace_1, ↓sem_trace_2, ↓sem_trace_3, ↓sem_trace_4, ↓load_const,
        cc_iff, ea, and_imm, and_imm_left, ilog2_lit, or_eq_zero, or_mod32, or_lt_2p31,
        Nat.mod_mod, Nat.zero_or, Nat.or_zero, Nat.sub_zero, Nat.add_mod_right, lane_eq,
        Machine.io_eq_get, Nat.xor_self, Loc.x.injEq, Loc.g.injEq, Loc.m.injEq,
        Bool.toNat_eq_zero, Bool.toNat_eq_one, Nat.reducePow, Nat.reduceMul,
        Nat.reduceMod, Nat.reduceAdd, Nat.reduceSub, Nat.reduceDiv, Nat.reduceEqDiff,
        Nat.reduceLTLE, Nat.reduceLeDiff, Nat.reduceLT, Nat.reduceGT, Nat.reduceOr,
        Nat.reduceXor, reduceCtorEq, Bool.not_eq_true', Bool.not_eq_true,
        decide_eq_true_eq, decide_eq_false_iff_not, Bool.and_eq_true, Bool.or_eq_true,
        bne_iff_ne, beq_iff_eq, ne_eq, Bool.not_eq_false', Bool.not_eq_false, decide_not,
        not_not, Bool.decide_eq_true, Bool.false_eq_true, Bool.true_eq_false,
        not_false_eq_true, not_true_eq_false, and_true, true_and, and_false, false_and,
        or_true, true_or, or_false, false_or, not_true, not_false_iff, iff_self, true_iff,
        iff_true, false_iff, iff_false, ite_self, decide_eq_decide, decide_False,
        decide_True, Bool.not_true, Bool.not_false]
    all_goals omega

/-- C15: for every subnormal argument of either sign and for `+0` and `-0` (exponent field
zero), `fast_exp` returns exactly `1.0` (bits `0x3FF0000000000000`); the value is the sum
`x + 1.0` formed in `L_2TAG_PACKET_0_0_2`, the block entered from `start` for `|x| < 2^-54`
and left directly for the exit when `|x| < 1024`. -/
theorem fast_exp_subnormal (cpu : Cpu) (s : Machine) (he : f64Exp s.arg0 = 0) :
    (fast_exp cpu s).result = 0x3FF0000000000000 ∧
    (fast_exp cpu s).result = f64Add s.arg0 0x3FF0000000000000 ∧
    (fast_exp cpu s).trace = [Label.B1_5, Label.L_2TAG_PACKET_0_0_2, Label.start, Label.entry]
      ++ s.trace := by
  obtain ⟨h1, h2⟩ := fast_exp_tiny_run cpu s he
  exact ⟨h1, by rw [h1, f64Add_subnormal_one _ he], h2⟩

theorem fast_exp_subnormal_witness :
    f64Exp (Machine.init 0x800FFFFFFFFFFFFF 0).arg0 = 0 ∧
    (fast_exp Cpu.sample (Machine.init 0x800FFFFFFFFFFFFF 0)).result = 0x3FF0000000000000 :=
  ⟨by decide, (fast_exp_subnormal Cpu.sample (Machine.init 0x800FFFFFFFFFFFFF 0) (by decide)).1⟩

end MacroAssembler

namespace MacroAssembler
open XReg GReg Machine

/-! ### `fast_exp` of large arguments -/

theorem f64Mul_XMAX : f64Mul 0x7FEFFFFFFFFFFFFF 0x7FEFFFFFFFFFFFFF = 0x7FF0000000000000 := by
  decide!
theorem f64Mul_XMIN : f64Mul 0x0010000000000000 0x0010000000000000 = 0 := by decide!

theorem fast_exp_huge_pos_run (cpu : Cpu) (s : Machine)
    (h1 : 0x4090000000000000 ≤ s.arg0) (h2 : s.arg0 < 0x7FF0000000000000) :
    (fast_exp cpu s).result = 0x7FF0000000000000 ∧
    (fast_exp cpu s).trace = [Label.B1_5, Label.B1_3, Label.L_2TAG_PACKET_6_0_2,
      Label.L_2TAG_PACKET_7_0_2, Label.L_2TAG_PACKET_8_0_2, Label.L_2TAG_PACKET_0_0_2,
      Label.start, Label.entry] ++ s.trace := by
  simp only [Machine.io_eq_get, Nat.reducePow] at h1 h2
  rw [
      fast_exp, fast_exp.exp_entry_eq, fast_exp.exp_start_eq, if_pos,
      fast_exp.exp_L_2TAG_PACKET_0_0_2_eq, if_pos, fast_exp.exp_L_2TAG_PACKET_8_0_2_eq,
      if_neg, if_neg, fast_exp.exp_L_2TAG_PACKET_7_0_2_eq,
      fast_exp.exp_L_2TAG_PACKET_6_0_2_eq, fast_exp.exp_B1_3_eq, fast_exp.exp_B1_5_eq]
  · set_option maxRecDepth 8000 in
    simp only [
        ↓reduceIte, f64Mul_XMAX, ↓fast_exp.exp_B1_5_1_sem, ↓fast_exp.exp_B1_3_1_sem,
        ↓fast_exp.exp_L_2TAG_PACKET_6_0_2_1_sem, ↓fast_exp.exp_L_2TAG_PACKET_7_0_2_1_sem,
        ↓fast_exp.exp_L_2TAG_PACKET_8_0_2_3_sem, ↓fast_exp.exp_L_2TAG_PACKET_8_0_2_2_sem,
        ↓fast_exp.exp_L_2TAG_PACKET_8_0_2_1_sem, ↓fast_exp.exp_L_2TAG_PACKET_0_0_2_1_sem,
        ↓fast_exp.exp_start_1_sem, ↓fast_exp.exp_entry_1_sem, ↓Machine.get_setx,
        ↓Machine.get_setg, ↓Machine.get_setstk, ↓Machine.get_enter, ↓Machine.get_setFlags,
        ↓Machine.trace_set, ↓Machine.get_ite, ↓Machine.trace_ite, ↓Machine.obs_eq_get,
        ↓Machine.flags_get, ↓Machine.flags_trace, ↓sem_get_1, ↓sem_get_2, ↓sem_get_3,
        ↓sem_get_4, ↓sem_trace_1, ↓sem_trace_2, ↓sem_trace_3, ↓sem_trace_4, ↓load_const,
        cc_iff, ea, and_imm, and_imm_left, ilog2_lit, or_eq_zero, or_mod32, or_lt_2p31,
        Nat.mod_mod, Nat.zero_or, Nat.or_zero, Nat.sub_zero, Nat.add_mod_right, lane_eq,
        Machine.io_eq_get, Nat.xor_self, Loc.x.injEq, Loc.g.injEq, Loc.m.injEq,
        Bool.toNat_eq_zero, Bool.toNat_eq_one, Nat.reducePow, Nat.reduceMul,
        Nat.reduceMod, Nat.reduceAdd, Nat.reduceSub, Nat.reduceDiv, Nat.reduceEqDiff,
        Nat.reduceLTLE, Nat.reduceLeDiff, Nat.reduceLT, Nat.reduceGT, Nat.reduceOr,
        Nat.reduceXor, reduceCtorEq, Bool.not_eq_true', Bool.not_eq_true,
        decide_eq_true_eq, decide_eq_false_iff_not, Bool.and_eq_true, Bool.or_eq_true,
        bne_iff_ne, beq_iff_eq, ne_eq, Bool.not_eq_false', Bool.not_eq_false, decide_not,
        not_not, Bool.decide_eq_true, Bool.false_eq_true, Bool.true_eq_false,
        not_false_eq_true, not_true_eq_false, and_true, true_and, and_false, false_and,
        or_true, true_or, or_false, false_or, not_true, not_false_iff, iff_self, true_iff,
        iff_true, false_iff, iff_false, ite_self, decide_eq_decide, decide_False,
        decide_True, Bool.not_true, Bool.not_false]
    simp
  · set_option maxRecDepth 8000 in
    simp only [
        ↓reduceIte, ↓fast_exp.exp_L_2TAG_PACKET_8_0_2_2_sem,
        ↓fast_exp.exp_L_2TAG_PACKET_8_0_2_1_sem, ↓fast_exp.exp_L_2TAG_PACKET_0_0_2_1_sem,
        ↓fast_exp.exp_start_1_sem, ↓fast_exp.exp_entry_1_sem, ↓Machine.get_setx,
        ↓Machine.get_setg, ↓Machine.get_setstk, ↓Machine.get_enter, ↓Machine.get_setFlags,
        ↓Machine.trace_set, ↓Machine.get_ite, ↓Machine.trace_ite, ↓Machine.obs_eq_get,
        ↓Machine.flags_get, ↓Machine.flags_trace, ↓sem_get_1, ↓sem_get_2, ↓sem_get_3,
        ↓sem_get_4, ↓sem_trace_1, ↓sem_trace_2, ↓sem_trace_3, ↓sem_trace_4, ↓load_const,
        cc_iff, ea, and_imm, and_imm_left, ilog2_lit, or_eq_zero, or_mod32, or_lt_2p31,
        Nat.mod_mod, Nat.zero_or, Nat.or_zero, Nat.sub_zero, Nat.add_mod_right, lane_eq,
        Machine.io_eq_get, Nat.xor_self, Loc.x.injEq, Loc.g.injEq, Loc.m.injEq,
        Bool.toNat_eq_zero, Bool.toNat_eq_one, Nat.reducePow, Nat.reduceMul,
        Nat.reduceMod, Nat.reduceAdd, Nat.reduceSub, Nat.reduceDiv, Nat.reduceEqDiff,
        Nat.reduceLTLE, Nat.reduceLeDiff, Nat.reduceLT, Nat.reduceGT, Nat.reduceOr,
        Nat.reduceXor, reduceCtorEq, Bool.not_eq_true', Bool.not_eq_true,
        decide_eq_true_eq, decide_eq_false_iff_not, Bool.and_eq_true, Bool.or_eq_true,
        bne_iff_ne, beq_iff_eq, ne_eq, Bool.not_eq_false', Bool.not_eq_false, decide_not,
        not_not, Bool.decide_eq_true, Bool.false_eq_true, Bool.true_eq_false,
        not_false_eq_true, not_true_eq_false, and_true, true_and, and_false, false_and,
        or_true, true_or, or_false, false_or, not_true, not_false_iff, iff_self, true_iff,
        iff_true, false_iff, iff_false, ite_self, decide_eq_decide, decide_False,
        decide_True, Bool.not_true, Bool.not_false]
    all_goals omega
  · set_option maxRecDepth 8000 in
    simp only [
        ↓reduceIte, ↓fast_exp.exp_L_2TAG_PACKET_8_0_2_1_sem,
        ↓fast_exp.exp_L_2TAG_PACKET_0_0_2_1_sem, ↓fast_exp.exp_start_1_sem,
        ↓fast_exp.exp_entry_1_sem, ↓Machine.get_setx, ↓Machine.get_setg,
        ↓Machine.get_setstk, ↓Machine.get_enter, ↓Machine.get_setFlags,
        ↓Machine.trace_set, ↓Machine.get_ite, ↓Machine.trace_ite, ↓Machine.obs_eq_get,
        ↓Machine.flags_get, ↓Machine.flags_trace, ↓sem_get_1, ↓sem_get_2, ↓sem_get_3,
        ↓sem_get_4, ↓sem_trace_1, ↓sem_trace_2, ↓sem_trace_3, ↓sem_trace_4, ↓load_const,
        cc_iff, ea, and_imm, and_imm_left, ilog2_lit, or_eq_zero, or_mod32, or_lt_2p31,
        Nat.mod_mod, Nat.zero_or, Nat.or_zero, Nat.sub_zero, Nat.add_mod_right, lane_eq,
        Machine.io_eq_get, Nat.xor_self, Loc.x.injEq, Loc.g.injEq, Loc.m.injEq,
        Bool.toNat_eq_zero, Bool.toNat_eq_one, Nat.reducePow, Nat.reduceMul,
        Nat.reduceMod, Nat.reduceAdd, Nat.reduceSub, Nat.reduceDiv, Nat.reduceEqDiff,
        Nat.reduceLTLE, Nat.reduceLeDiff, Nat.reduceLT, Nat.reduceGT, Nat.reduceOr,
        Nat.reduceXor, reduceCtorEq, Bool.not_eq_true', Bool.not_eq_true,
        decide_eq_true_eq, decide_eq_false_iff_not, Bool.and_eq_true, Bool.or_eq_true,
        bne_iff_ne, beq_iff_eq, ne_eq, Bool.not_eq_false', Bool.not_eq_false, decide_not,
        not_not, Bool.decide_eq_true, Bool.false_eq_true, Bool.true_eq_false,
        not_false_eq_true, not_true_eq_false, and_true, true_and, and_false, false_and,
        or_true, true_or, or_false, false_or, not_true, not_false_iff, iff_self, true_iff,
        iff_true, false_iff, iff_false, ite_self, decide_eq_decide, decide_False,
        decide_True, Bool.not_true, Bool.not_false]
    all_goals omega
  · set_option maxRecDepth 8000 in
    simp only [
        ↓reduceIte, ↓fast_exp.exp_L_2TAG_PACKET_0_0_2_1_sem, ↓fast_exp.exp_start_1_sem,
        ↓fast_exp.exp_entry_1_sem, ↓Machine.get_setx, ↓Machine.get_setg,
        ↓Machine.get_setstk, ↓Machine.get_enter, ↓Machine.get_setFlags,
        ↓Machine.trace_set, ↓Machine.get_ite, ↓Machine.trace_ite, ↓Machine.obs_eq_get,
        ↓Machine.flags_get, ↓Machine.flags_trace, ↓sem_get_1, ↓sem_get_2, ↓sem_get_3,
        ↓sem_get_4, ↓sem_trace_1, ↓sem_trace_2, ↓sem_trace_3, ↓sem_trace_4, ↓load_const,
        cc_iff, ea, and_imm, and_imm_left, ilog2_lit, or_eq_zero, or_mod32, or_lt_2p31,
        Nat.mod_mod, Nat.zero_or, Nat.or_zero, Nat.sub_zero, Nat.add_mod_right, lane_eq,
        Machine.io_eq_get, Nat.xor_self, Loc.x.injEq, Loc.g.injEq, Loc.m.injEq,
        Bool.toNat_eq_zero, Bool.toNat_eq_one, Nat.reducePow, Nat.reduceMul,
        Nat.reduceMod, Nat.reduceAdd, Nat.reduceSub, Nat.reduceDiv, Nat.reduceEqDiff,
        Nat.reduceLTLE, Nat.reduceLeDiff, Nat.reduceLT, Nat.reduceGT, Nat.reduceOr,
        Nat.reduceXor, reduceCtorEq, Bool.not_eq_true', Bool.not_eq_true,
        decide_eq_true_eq, decide_eq_false_iff_not, Bool.and_eq_true, Bool.or_eq_true,
        bne_iff_ne, beq_iff_eq, ne_eq, Bool.not_eq_false', Bool.not_eq_false, decide_not,
        not_not, Bool.decide_eq_true, Bool.false_eq_true, Bool.true_eq_false,
        not_false_eq_true, not_true_eq_false, and_true, true_and, and_false, false_and,
        or_true, true_or, or_false, false_or, not_true, not_false_iff, iff_self, true_iff,
        iff_true, false_iff, iff_false, ite_self, decide_eq_decide, decide_False,
        decide_True, Bool.not_true, Bool.not_false]
    all_goals omega
  · set_option maxRecDepth 8000 in
    simp only [
        ↓reduceIte, or_mod32, Nat.mod_mod, or_lt_2p31, pextrw3_mk,
        ↓fast_exp.exp_start_1_sem, ↓fast_exp.exp_entry_1_sem, ↓Machine.get_setx,
        ↓Machine.get_setg, ↓Machine.get_setstk, ↓Machine.get_enter, ↓Machine.get_setFlags,
        ↓Machine.trace_set, ↓Machine.get_ite, ↓Machine.trace_ite, ↓Machine.obs_eq_get,
        ↓Machine.flags_get, ↓Machine.flags_trace, ↓sem_get_1, ↓sem_get_2, ↓sem_get_3,
        ↓sem_get_4, ↓sem_trace_1, ↓sem_trace_2, ↓sem_trace_3, ↓sem_trace_4, ↓load_const,
        cc_iff, ea, and_imm, and_imm_left, ilog2_lit, or_eq_zero, or_mod32, or_lt_2p31,
        Nat.mod_mod, Nat.zero_or, Nat.or_zero, Nat.sub_zero, Nat.add_mod_right, lane_eq,
        Machine.io_eq_get, Nat.xor_self, Loc.x.injEq, Loc.g.injEq, Loc.m.injEq,
        Bool.toNat_eq_zero, Bool.toNat_eq_one, Nat.reducePow, Nat.reduceMul,
        Nat.reduceMod, Nat.reduceAdd, Nat.reduceSub, Nat.reduceDiv, Nat.reduceEqDiff,
        Nat.reduceLTLE, Nat.reduceLeDiff, Nat.reduceLT, Nat.reduceGT, Nat.reduceOr,
        Nat.reduceXor, reduceCtorEq, Bool.not_eq_true', Bool.not_eq_true,
        decide_eq_true_eq, decide_eq_false_iff_not, Bool.and_eq_true, Bool.or_eq_true,
        bne_iff_ne, beq_iff_eq, ne_eq, Bool.not_eq_false', Bool.not_eq_false, decide_not,
        not_not, Bool.decide_eq_true, Bool.false_eq_true, Bool.true_eq_false,
        not_false_eq_true, not_true_eq_false, and_true, true_and, and_false, false_and,
        or_true, true_or, or_false, false_or, not_true, not_false_iff, iff_self, true_iff,
        iff_true, false_iff, iff_false, ite_self, decide_eq_decide, decide_False,
        decide_True, Bool.not_true, Bool.not_false]
    all_goals omega

theorem fast_exp_huge_neg_run (cpu : Cpu) (s : Machine)
    (h1 : 0xC090000000000000 ≤ s.arg0) (h2 : s.arg0 < 0xFFF0000000000000) :
    (fast_exp cpu s).result = 0 ∧
    (fast_exp cpu s).trace = [Label.B1_5, Label.B1_3, Label.L_2TAG_PACKET_6_0_2,
      Label.L_2TAG_PACKET_10_0_2, Label.L_2TAG_PACKET_8_0_2, Label.L_2TAG_PACKET_0_0_2,
      Label.start, Label.entry] ++ s.trace := by
  simp only [Machine.io_eq_get, Nat.reducePow] at h1 h2
  rw [
      fast_exp, fast_exp.exp_entry_eq, fast_exp.exp_start_eq, if_pos,
      fast_exp.exp_L_2TAG_PACKET_0_0_2_eq, if_pos, fast_exp.exp_L_2TAG_PACKET_8_0_2_eq,
      if_neg, if_pos, fast_exp.exp_L_2TAG_PACKET_10_0_2_eq,
      fast_exp.exp_L_2TAG_PACKET_6_0_2_eq, fast_exp.exp_B1_3_eq, fast_exp.exp_B1_5_eq]
  · set_option maxRecDepth 8000 in
    simp only [
        ↓reduceIte, f64Mul_XMIN, ↓fast_exp.exp_B1_5_1_sem, ↓fast_exp.exp_B1_3_1_sem,
        ↓fast_exp.exp_L_2TAG_PACKET_6_0_2_1_sem, ↓fast_exp.exp_L_2TAG_PACKET_10_0_2_1_sem,
        ↓fast_exp.exp_L_2TAG_PACKET_8_0_2_2_sem, ↓fast_exp.exp_L_2TAG_PACKET_8_0_2_1_sem,
        ↓fast_exp.exp_L_2TAG_PACKET_0_0_2_1_sem, ↓fast_exp.exp_start_1_sem,
        ↓fast_exp.exp_entry_1_sem, ↓Machine.get_setx, ↓Machine.get_setg,
        ↓Machine.get_setstk, ↓Machine.get_enter, ↓Machine.get_setFlags,
        ↓Machine.trace_set, ↓Machine.get_ite, ↓Machine.trace_ite, ↓Machine.obs_eq_get,
        ↓Machine.flags_get, ↓Machine.flags_trace, ↓sem_get_1, ↓sem_get_2, ↓sem_get_3,
        ↓sem_get_4, ↓sem_trace_1, ↓sem_trace_2, ↓sem_trace_3, ↓sem_trace_4, ↓load_const,
        cc_iff, ea, and_imm, and_imm_left, ilog2_lit, or_eq_zero, or_mod32, or_lt_2p31,
        Nat.mod_mod, Nat.zero_or, Nat.or_zero, Nat.sub_zero, Nat.add_mod_right, lane_eq,
        Machine.io_eq_get, Nat.xor_self, Loc.x.injEq, Loc.g.injEq, Loc.m.injEq,
        Bool.toNat_eq_zero, Bool.toNat_eq_one, Nat.reducePow, Nat.reduceMul,
        Nat.reduceMod, Nat.reduceAdd, Nat.reduceSub, Nat.reduceDiv, Nat.reduceEqDiff,
        Nat.reduceLTLE, Nat.reduceLeDiff, Nat.reduceLT, Nat.reduceGT, Nat.reduceOr,
        Nat.reduceXor, reduceCtorEq, Bool.not_eq_true', Bool.not_eq_true,
        decide_eq_true_eq, decide_eq_false_iff_not, Bool.and_eq_true, Bool.or_eq_true,
        bne_iff_ne, beq_iff_eq, ne_eq, Bool.not_eq_false', Bool.not_eq_false, decide_not,
        not_not, Bool.decide_eq_true, Bool.false_eq_true, Bool.true_eq_false,
        not_false_eq_true, not_true_eq_false, and_true, true_and, and_false, false_and,
        or_true, true_or, or_false, false_or, not_true, not_false_iff, iff_self, true_iff,
        iff_true, false_iff, iff_false, ite_self, decide_eq_decide, decide_False,
        decide_True, Bool.not_true, Bool.not_false]
    simp
  · set_option maxRecDepth 8000 in
    simp only [
        ↓reduceIte, ↓fast_exp.exp_L_2TAG_PACKET_8_0_2_2_sem,
        ↓fast_exp.exp_L_2TAG_PACKET_8_0_2_1_sem, ↓fast_exp.exp_L_2TAG_PACKET_0_0_2_1_sem,
        ↓fast_exp.exp_start_1_sem, ↓fast_exp.exp_entry_1_sem, ↓Machine.get_setx,
        ↓Machine.get_setg, ↓Machine.get_setstk, ↓Machine.get_enter, ↓Machine.get_setFlags,
        ↓Machine.trace_set, ↓Machine.get_ite, ↓Machine.trace_ite, ↓Machine.obs_eq_get,
        ↓Machine.flags_get, ↓Machine.flags_trace, ↓sem_get_1, ↓sem_get_2, ↓sem_get_3,
        ↓sem_get_4, ↓sem_trace_1, ↓sem_trace_2, ↓sem_trace_3, ↓sem_trace_4, ↓load_const,
        cc_iff, ea, and_imm, and_imm_left, ilog2_lit, or_eq_zero, or_mod32, or_lt_2p31,
        Nat.mod_mod, Nat.zero_or, Nat.or_zero, Nat.sub_zero, Nat.add_mod_right, lane_eq,
        Machine.io_eq_get, Nat.xor_self, Loc.x.injEq, Loc.g.injEq, Loc.m.injEq,
        Bool.toNat_eq_zero, Bool.toNat_eq_one, Nat.reducePow, Nat.reduceMul,
        Nat.reduceMod, Nat.reduceAdd, Nat.reduceSub, Nat.reduceDiv, Nat.reduceEqDiff,
        Nat.reduceLTLE, Nat.reduceLeDiff, Nat.reduceLT, Nat.reduceGT, Nat.reduceOr,
        Nat.reduceXor, reduceCtorEq, Bool.not_eq_true', Bool.not_eq_true,
        decide_eq_true_eq, decide_eq_false_iff_not, Bool.and_eq_true, Bool.or_eq_true,
        bne_iff_ne, beq_iff_eq, ne_eq, Bool.not_eq_false', Bool.not_eq_false, decide_not,
        not_not, Bool.decide_eq_true, Bool.false_eq_true, Bool.true_eq_false,
        not_false_eq_true, not_true_eq_false, and_true, true_and, and_false, false_and,
        or_true, true_or, or_false, false_or, not_true, not_false_iff, iff_self, true_iff,
        iff_true, false_iff, iff_false, ite_self, decide_eq_decide, decide_False,
        decide_True, Bool.not_true, Bool.not_false]
    all_goals omega
  · set_option maxRecDepth 8000 in
    simp only [
        ↓reduceIte, ↓fast_exp.exp_L_2TAG_PACKET_8_0_2_1_sem,
        ↓fast_exp.exp_L_2TAG_PACKET_0_0_2_1_sem, ↓fast_exp.exp_start_1_sem,
        ↓fast_exp.exp_entry_1_sem, ↓Machine.get_setx, ↓Machine.get_setg,
        ↓Machine.get_setstk, ↓Machine.get_enter, ↓Machine.get_setFlags,
        ↓Machine.trace_set, ↓Machine.get_ite, ↓Machine.trace_ite, ↓Machine.obs_eq_get,
        ↓Machine.flags_get, ↓Machine.flags_trace, ↓sem_get_1, ↓sem_get_2, ↓sem_get_3,
        ↓sem_get_4, ↓sem_trace_1, ↓sem_trace_2, ↓sem_trace_3, ↓sem_trace_4, ↓load_const,
        cc_iff, ea, and_imm, and_imm_left, ilog2_lit, or_eq_zero, or_mod32, or_lt_2p31,
        Nat.mod_mod, Nat.zero_or, Nat.or_zero, Nat.sub_zero, Nat.add_mod_right, lane_eq,
        Machine.io_eq_get, Nat.xor_self, Loc.x.injEq, Loc.g.injEq, Loc.m.injEq,
        Bool.toNat_eq_zero, Bool.toNat_eq_one, Nat.reducePow, Nat.reduceMul,
        Nat.reduceMod, Nat.reduceAdd, Nat.reduceSub, Nat.reduceDiv, Nat.reduceEqDiff,
        Nat.reduceLTLE, Nat.reduceLeDiff, Nat.reduceLT, Nat.reduceGT, Nat.reduceOr,
        Nat.reduceXor, reduceCtorEq, Bool.not_eq_true', Bool.not_eq_true,
        decide_eq_true_eq, decide_eq_false_iff_not, Bool.and_eq_true, Bool.or_eq_true,
        bne_iff_ne, beq_iff_eq, ne_eq, Bool.not_eq_false', Bool.not_eq_false, decide_not,
        not_not, Bool.decide_eq_true, Bool.false_eq_true, Bool.true_eq_false,
        not_false_eq_true, not_true_eq_false, and_true, true_and, and_false, false_and,
        or_true, true_or, or_false, false_or, not_true, not_false_iff, iff_self, true_iff,
        iff_true, false_iff, iff_false, ite_self, decide_eq_decide, decide_False,
        decide_True, Bool.not_true, Bool.not_false]
    all_goals omega
  · set_option maxRecDepth 8000 in
    simp only [
        ↓reduceIte, ↓fast_exp.exp_L_2TAG_PACKET_0_0_2_1_sem, ↓fast_exp.exp_start_1_sem,
        ↓fast_exp.exp_entry_1_sem, ↓Machine.get_setx, ↓Machine.get_setg,
        ↓Machine.get_setstk, ↓Machine.get_enter, ↓Machine.get_setFlags,
        ↓Machine.trace_set, ↓Machine.get_ite, ↓Machine.trace_ite, ↓Machine.obs_eq_get,
        ↓Machine.flags_get, ↓Machine.flags_trace, ↓sem_get_1, ↓sem_get_2, ↓sem_get_3,
        ↓sem_get_4, ↓sem_trace_1, ↓sem_trace_2, ↓sem_trace_3, ↓sem_trace_4, ↓load_const,
        cc_iff, ea, and_imm, and_imm_left, ilog2_lit, or_eq_zero, or_mod32, or_lt_2p31,
        Nat.mod_mod, Nat.zero_or, Nat.or_zero, Nat.sub_zero, Nat.add_mod_right, lane_eq,
        Machine.io_eq_get, Nat.xor_self, Loc.x.injEq, Loc.g.injEq, Loc.m.injEq,
        Bool.toNat_eq_zero, Bool.toNat_eq_one, Nat.reducePow, Nat.reduceMul,
        Nat.reduceMod, Nat.reduceAdd, Nat.reduceSub, Nat.reduceDiv, Nat.reduceEqDiff,
        Nat.reduceLTLE, Nat.reduceLeDiff, Nat.reduceLT, Nat.reduceGT, Nat.reduceOr,
        Nat.reduceXor, reduceCtorEq, Bool.not_eq_true', Bool.not_eq_true,
        decide_eq_true_eq, decide_eq_false_iff_not, Bool.and_eq_true, Bool.or_eq_true,
        bne_iff_ne, beq_iff_eq, ne_eq, Bool.not_eq_false', Bool.not_eq_false, decide_not,
        not_not, Bool.decide_eq_true, Bool.false_eq_true, Bool.true_eq_false,
        not_false_eq_true, not_true_eq_false, and_true, true_and, and_false, false_and,
        or_true, true_or, or_false, false_or, not_true, not_false_iff, iff_self, true_iff,
        iff_true, false_iff, iff_false, ite_self, decide_eq_decide, decide_False,
        decide_True, Bool.not_true, Bool.not_false]
    all_goals omega
  · set_option maxRecDepth 8000 in
    simp only [
        ↓reduceIte, or_mod32, Nat.mod_mod, or_lt_2p31, pextrw3_mk,
        ↓fast_exp.exp_start_1_sem, ↓fast_exp.exp_entry_1_sem, ↓Machine.get_setx,
        ↓Machine.get_setg, ↓Machine.get_setstk, ↓Machine.get_enter, ↓Machine.get_setFlags,
        ↓Machine.trace_set, ↓Machine.get_ite, ↓Machine.trace_ite, ↓Machine.obs_eq_get,
        ↓Machine.flags_get, ↓Machine.flags_trace, ↓sem_get_1, ↓sem_get_2, ↓sem_get_3,
        ↓sem_get_4, ↓sem_trace_1, ↓sem_trace_2, ↓sem_trace_3, ↓sem_trace_4, ↓load_const,
        cc_iff, ea, and_imm, and_imm_left, ilog2_lit, or_eq_zero, or_mod32, or_lt_2p31,
        Nat.mod_mod, Nat.zero_or, Nat.or_zero, Nat.sub_zero, Nat.add_mod_right, lane_eq,
        Machine.io_eq_get, Nat.xor_self, Loc.x.injEq, Loc.g.injEq, Loc.m.injEq,
        Bool.toNat_eq_zero, Bool.toNat_eq_one, Nat.reducePow, Nat.reduceMul,
        Nat.reduceMod, Nat.reduceAdd, Nat.reduceSub, Nat.reduceDiv, Nat.reduceEqDiff,
        Nat.reduceLTLE, Nat.reduceLeDiff, Nat.reduceLT, Nat.reduceGT, Nat.reduceOr,
        Nat.reduceXor, reduceCtorEq, Bool.not_eq_true', Bool.not_eq_true,
        decide_eq_true_eq, decide_eq_false_iff_not, Bool.and_eq_true, Bool.or_eq_true,
        bne_iff_ne, beq_iff_eq, ne_eq, Bool.not_eq_false', Bool.not_eq_false, decide_not,
        not_not, Bool.decide_eq_true, Bool.false_eq_true, Bool.true_eq_false,
        not_false_eq_true, not_true_eq_false, and_true, true_and, and_false, false_and,
        or_true, true_or, or_false, false_or, not_true, not_false_iff, iff_self, true_iff,
        iff_true, false_iff, iff_false, ite_self, decide_eq_decide, decide_False,
        decide_True, Bool.not_true, Bool.not_false]
    all_goals omega

end MacroAssembler

namespace MacroAssembler
open XReg GReg Machine

set_option maxRecDepth 100000 in
set_option maxHeartbeats 4000000 in
theorem fast_pow_L3_two_ten (cpu : Cpu) (t : Machine)
    (h1 : t.get (.x xmm1) = 0x77f0000000000000)
    (h2 : t.get (.x xmm2) = 0x3ff7200000000000)
    (h3 : t.get (.x xmm3) % 18446744073709551616 = 0x77f0000000000000)
    (h4 : t.get (.x xmm4) = 0x2000)
    (h5 : t.get (.x xmm5) % 18446744073709551616 = 0x77f0000000000000)
    (h6 : t.get (.x xmm6) = 0xfffff80000000000fffff80000000000)
    (h7 : t.get (.x xmm7) = 0x3fb90000)
    (ha : t.get (.g eax) = 17)
    (hc : t.get (.g ecx) = 1)
    (ht1 : t.get (.g tmp1) = 0)
    (hm8 : t.get (.m 8) = 0x4000000000000000)
    (hm16 : t.get (.m 16) = 0x4024000000000000)
    (h0 : t.get (.x xmm0) % 18446744073709551616 / 8796093022208 = 65252)
    (hd : t.get (.g edx) % 4294967296 / 16384 % 1024 = 740) :
    (fast_pow.L_2TAG_PACKET_3_0_2 cpu t).result = 0x4090000000000000 := by
  have e1 : (t.get (.x xmm0) &&& 340282204661661634268457951131374452736) %
      18446744073709551616 = 573962661885116416 := by
    have := and_mod_pow (t.get (.x xmm0)) 340282204661661634268457951131374452736 64
    have em : (340282204661661634268457951131374452736 : Nat) % 2 ^ 64 =
        (2 ^ 21 - 1) * 2 ^ 43 := by decide
    rw [em, and_mask] at this
    simp only [Nat.reducePow] at this
    omega
  have e2 : t.get (.g edx) % 4294967296 / 16384 % 1024 * 16384 % 4294967296 / 1024 =
      11840 := by omega
  have b1 : (fast_pow.L_2TAG_PACKET_3_0_2_1 cpu t).get (.g eax) = 1 := by
    set_option maxRecDepth 8000 in
    simp only [
        ↓reduceIte, ↓fast_pow.pow_L_2TAG_PACKET_3_0_2_1_sem, ha, ↓Machine.get_setx,
        ↓Machine.get_setg, ↓Machine.get_setstk, ↓Machine.get_enter, ↓Machine.get_setFlags,
        ↓Machine.trace_set, ↓Machine.get_ite, ↓Machine.trace_ite, ↓Machine.obs_eq_get,
        ↓Machine.flags_get, ↓Machine.flags_trace, ↓sem_get_1, ↓sem_get_2, ↓sem_get_3,
        ↓sem_get_4, ↓sem_trace_1, ↓sem_trace_2, ↓sem_trace_3, ↓sem_trace_4, ↓load_const,
        cc_iff, ea, and_imm, and_imm_left, ilog2_lit, or_eq_zero, or_mod32, or_lt_2p31,
        Nat.mod_mod, Nat.zero_or, Nat.or_zero, Nat.sub_zero, Nat.add_mod_right, lane_eq,
        Machine.io_eq_get, Nat.xor_self, Loc.x.injEq, Loc.g.injEq, Loc.m.injEq,
        Bool.toNat_eq_zero, Bool.toNat_eq_one, Nat.reducePow, Nat.reduceMul,
        Nat.reduceMod, Nat.reduceAdd, Nat.reduceSub, Nat.reduceDiv, Nat.reduceEqDiff,
        Nat.reduceLTLE, Nat.reduceLeDiff, Nat.reduceLT, Nat.reduceGT, Nat.reduceOr,
        Nat.reduceXor, reduceCtorEq, Bool.not_eq_true', Bool.not_eq_true,
        decide_eq_true_eq, decide_eq_false_iff_not, Bool.and_eq_true, Bool.or_eq_true,
        bne_iff_ne, beq_iff_eq, ne_eq, Bool.not_eq_false', Bool.not_eq_false, decide_not,
        not_not, Bool.decide_eq_true, Bool.false_eq_true, Bool.true_eq_false,
        not_false_eq_true, not_true_eq_false, and_true, true_and, and_false, false_and,
        or_true, true_or, or_false, false_or, not_true, not_false_iff, iff_self, true_iff,
        iff_true, false_iff, iff_false, ite_self, decide_eq_decide, decide_False,
        decide_True, Bool.not_true, Bool.not_false]
  have b2 : (fast_pow.L_2TAG_PACKET_3_0_2_1 cpu t).get (.m 16) = 0x4024000000000000 := by
    set_option maxRecDepth 8000 in
    simp only [
        ↓reduceIte, ↓fast_pow.pow_L_2TAG_PACKET_3_0_2_1_sem, hm16, ↓Machine.get_setx,
        ↓Machine.get_setg, ↓Machine.get_setstk, ↓Machine.get_enter, ↓Machine.get_setFlags,
        ↓Machine.trace_set, ↓Machine.get_ite, ↓Machine.trace_ite, ↓Machine.obs_eq_get,
        ↓Machine.flags_get, ↓Machine.flags_trace, ↓sem_get_1, ↓sem_get_2, ↓sem_get_3,
        ↓sem_get_4, ↓sem_trace_1, ↓sem_trace_2, ↓sem_trace_3, ↓sem_trace_4, ↓load_const,
        cc_iff, ea, and_imm, and_imm_left, ilog2_lit, or_eq_zero, or_mod32, or_lt_2p31,
        Nat.mod_mod, Nat.zero_or, Nat.or_zero, Nat.sub_zero, Nat.add_mod_right, lane_eq,
        Machine.io_eq_get, Nat.xor_self, Loc.x.injEq, Loc.g.injEq, Loc.m.injEq,
        Bool.toNat_eq_zero, Bool.toNat_eq_one, Nat.reducePow, Nat.reduceMul,
        Nat.reduceMod, Nat.reduceAdd, Nat.reduceSub, Nat.reduceDiv, Nat.reduceEqDiff,
        Nat.reduceLTLE, Nat.reduceLeDiff, Nat.reduceLT, Nat.reduceGT, Nat.reduceOr,
        Nat.reduceXor, reduceCtorEq, Bool.not_eq_true', Bool.not_eq_true,
        decide_eq_true_eq, decide_eq_false_iff_not, Bool.and_eq_true, Bool.or_eq_true,
        bne_iff_ne, beq_iff_eq, ne_eq, Bool.not_eq_false', Bool.not_eq_false, decide_not,
        not_not, Bool.decide_eq_true, Bool.false_eq_true, Bool.true_eq_false,
        not_false_eq_true, not_true_eq_false, and_true, true_and, and_false, false_and,
        or_true, true_or, or_false, false_or, not_true, not_false_iff, iff_self, true_iff,
        iff_true, false_iff, iff_false, ite_self, decide_eq_decide, decide_False,
        decide_True, Bool.not_true, Bool.not_false]
  have b3 : ¬ cc_aboveEqual (fast_pow.L_2TAG_PACKET_4_0_2_1 cpu
      (fast_pow.L_2TAG_PACKET_3_0_2_1 cpu t)) = true := by
    rw [pow_L4_1_branch, b1, b2]
    decide!
  rw [fast_pow.pow_L_2TAG_PACKET_3_0_2_eq, fast_pow.pow_L_2TAG_PACKET_4_0_2_eq, if_neg b3,
    fast_pow.pow_B1_5_eq]
  set_option maxRecDepth 8000 in
  simp only [
      ↓reduceIte, ↓fast_pow.pow_B1_5_1_sem, ↓fast_pow.pow_L_2TAG_PACKET_4_0_2_2_sem,
      ↓fast_pow.pow_L_2TAG_PACKET_4_0_2_1_sem, ↓fast_pow.pow_L_2TAG_PACKET_3_0_2_1_sem, h1,
      h2, h3, h4, h5, h6, h7, ha, hc, ht1, hm8, hm16, Nat.div_one, Nat.add_zero,
      Nat.mul_one, Nat.add_mul_mod_self_left, Nat.zero_add, or_mod64, mk128_one, mk128_dw1,
      e1, e2, ↓Machine.get_setx, ↓Machine.get_setg, ↓Machine.get_setstk, ↓Machine.get_enter,
      ↓Machine.get_setFlags, ↓Machine.trace_set, ↓Machine.get_ite, ↓Machine.trace_ite,
      ↓Machine.obs_eq_get, ↓Machine.flags_get, ↓Machine.flags_trace, ↓sem_get_1, ↓sem_get_2,
      ↓sem_get_3, ↓sem_get_4, ↓sem_trace_1, ↓sem_trace_2, ↓sem_trace_3, ↓sem_trace_4,
      ↓load_const, cc_iff, ea, and_imm, and_imm_left, ilog2_lit, or_eq_zero, or_mod32,
      or_lt_2p31, Nat.mod_mod, Nat.zero_or, Nat.or_zero, Nat.sub_zero, Nat.add_mod_right,
      lane_eq, Machine.io_eq_get, Nat.xor_self, Loc.x.injEq, Loc.g.injEq, Loc.m.injEq,
      Bool.toNat_eq_zero, Bool.toNat_eq_one, Nat.reducePow, Nat.reduceMul, Nat.reduceMod,
      Nat.reduceAdd, Nat.reduceSub, Nat.reduceDiv, Nat.reduceEqDiff, Nat.reduceLTLE,
      Nat.reduceLeDiff, Nat.reduceLT, Nat.reduceGT, Nat.reduceOr, Nat.reduceXor,
      reduceCtorEq, Bool.not_eq_true', Bool.not_eq_true, decide_eq_true_eq,
      decide_eq_false_iff_not, Bool.and_eq_true, Bool.or_eq_true, bne_iff_ne, beq_iff_eq,
      ne_eq, Bool.not_eq_false', Bool.not_eq_false, decide_not, not_not,
      Bool.decide_eq_true, Bool.false_eq_true, Bool.true_eq_false, not_false_eq_true,
      not_true_eq_false, and_true, true_and, and_false, false_and, or_true, true_or,
      or_false, false_or, not_true, not_false_iff, iff_self, true_iff, iff_true, false_iff,
      iff_false, ite_self, decide_eq_decide, decide_False, decide_True, Bool.not_true,
      Bool.not_false]
  decide!

theorem rne_bounds (sig k : Nat) : sig / 2 ^ k ≤ rne sig k ∧ rne sig k ≤ sig / 2 ^ k + 1 := by
  unfold rne
  simp only
  split_ifs <;> omega

/-- The product of an estimate of `1 / 1.0` within `1.5 * 2^-12` and the single-precision
constant `0x3fb90000`, plus the rounding constant `8192`, has `0xFEE4` above bit 14. -/
theorem mulss_log2e_window (f : Nat) (h1 : 0x3F7FE800 ≤ f) (h2 : f ≤ 0x3F800C00) :
    f32Mul f 0x3fb90000 < 4294967296 ∧ (f32Mul f 0x3fb90000 + 8192) / 16384 = 65252 := by
  have c1 : f32Sign 0x3fb90000 = 0 := by decide
  have c2 : f32IsNaN 0x3fb90000 = false := by decide
  have c3 : f32IsInf 0x3fb90000 = false := by decide
  have c4 : f32Sig 0x3fb90000 = 12124160 := by decide
  have c5 : f32E 0x3fb90000 = 127 := by decide
  have hs : f32Sign f = 0 := by
    simp only [f32Sign, Nat.reducePow]
    omega
  by_cases hc : f < 0x3F800000
  · have he : f32Exp f = 126 := by
      simp only [f32Exp, Nat.reducePow]
      omega
    have n1 : f32IsNaN f = false := by simp [f32IsNaN, he]
    have n2 : f32IsInf f = false := by simp [f32IsInf, he]
    have e1 : f32E f = 126 := by simp [f32E, he]
    have s1 : f32Sig f = f - 0x3E800000 := by
      simp only [f32Sig, he, f32Man, Nat.reducePow]
      rw [if_neg (by decide)]
      omega
    have hl : ilog2 ((f - 0x3E800000) * 12124160) = 47 :=
      ilog2_eq _ 47 (by simp only [Nat.reducePow]; omega)
        (by simp only [Nat.reduceAdd, Nat.reducePow]; omega)
        (by decide)
    have hr := rne_bounds ((f - 0x3E800000) * 12124160) 24
    unfold f32Mul roundPack32 roundPackG
    simp only [n1, n2, c1, c2, c3, c4, c5, hs, e1, s1, hl, Bool.false_eq_true, if_false,
      or_self, Nat.reduceAdd, Nat.reduceMod, Nat.zero_mul, Nat.reduceSub, Nat.reducePow,
      Nat.reduceMul, Nat.reduceLeDiff, max_eq_left, Nat.zero_add] at hr ⊢
    split_ifs <;> omega
  · have he : f32Exp f = 127 := by
      simp only [f32Exp, Nat.reducePow]
      omega
    have n1 : f32IsNaN f = false := by simp [f32IsNaN, he]
    have n2 : f32IsInf f = false := by simp [f32IsInf, he]
    have e1 : f32E f = 127 := by simp [f32E, he]
    have s1 : f32Sig f = f - 0x3F000000 := by
      simp only [f32Sig, he, f32Man, Nat.reducePow]
      rw [if_neg (by decide)]
      omega
    have hl : ilog2 ((f - 0x3F000000) * 12124160) = 46 :=
      ilog2_eq _ 46 (by simp only [Nat.reducePow]; omega)
        (by simp only [Nat.reduceAdd, Nat.reducePow]; omega)
        (by decide)
    have hr := rne_bounds ((f - 0x3F000000) * 12124160) 23
    unfold f32Mul roundPack32 roundPackG
    simp only [n1, n2, c1, c2, c3, c4, c5, hs, e1, s1, hl, Bool.false_eq_true, if_false,
      or_self, Nat.reduceAdd, Nat.reduceMod, Nat.zero_mul, Nat.reduceSub, Nat.reducePow,
      Nat.reduceMul, Nat.reduceLeDiff, max_eq_left, Nat.zero_add] at hr ⊢
    split_ifs <;> omega

theorem mkqw_one (a c d : Nat) :
    (a + 18446744073709551616 * c + 79228162514264337593543950336 * d) % 4294967296 =
      a % 4294967296 := by omega

theorem mulss_norm (a b c d f : Nat) :
    a + 4294967296 * b + 18446744073709551616 * c + 79228162514264337593543950336 * d - a + f
      = f + 4294967296 * b + 18446744073709551616 * c +
        79228162514264337593543950336 * d := by omega

theorem mkdw_lo (a b c d : Nat) :
    (a % 4294967296 + 4294967296 * (b % 4294967296) + 18446744073709551616 * c +
      79228162514264337593543950336 * d) % 18446744073709551616 =
      a % 4294967296 + 4294967296 * (b % 4294967296) := by omega

theorem and_mod_pow64 (a b : Nat) : (a &&& b) % 18446744073709551616 =
    a % 18446744073709551616 &&& b % 18446744073709551616 := and_mod_pow a b 64

set_option maxHeartbeats 4000000 in
/-- The run of `fast_pow` at `(2.0, 10.0)` up to `L_2TAG_PACKET_3_0_2`. -/
theorem fast_pow_two_ten_prefix (cpu : Cpu) (s : Machine) (hx : s.arg0 = 0x4000000000000000)
    (hy : s.arg1 = 0x4024000000000000)
    (hF : f32Mul (cpu.rcp 0x3F800000 % 4294967296) 0x3fb90000 < 4294967296) :
    ∃ t, fast_pow cpu s = fast_pow.L_2TAG_PACKET_3_0_2 cpu t ∧
      t.get (.x xmm1) = 0x77f0000000000000 ∧
      t.get (.x xmm2) = 0x3ff7200000000000 ∧
      t.get (.x xmm3) % 18446744073709551616 = 0x77f0000000000000 ∧
      t.get (.x xmm4) = 0x2000 ∧
      t.get (.x xmm5) % 18446744073709551616 = 0x77f0000000000000 ∧
      t.get (.x xmm6) = 0xfffff80000000000fffff80000000000 ∧
      t.get (.x xmm7) = 0x3fb90000 ∧
      t.get (.g eax) = 17 ∧
      t.get (.g ecx) = 1 ∧
      t.get (.g tmp1) = 0 ∧
      t.get (.m 8) = 0x4000000000000000 ∧
      t.get (.m 16) = 0x4024000000000000 ∧
      t.get (.x xmm0) % 18446744073709551616 =
        ((f32Mul (cpu.rcp 0x3F800000 % 4294967296) 0x3fb90000 + 8192) % 4294967296 +
          4294967296 * (cpu.rcp 3 % 4294967296)) * 536870912 % 18446744073709551616 ∧
      t.get (.g edx) =
        (f32Mul (cpu.rcp 0x3F800000 % 4294967296) 0x3fb90000 + 8192) % 4294967296 := by
  simp only [Machine.io_eq_get, Nat.reducePow] at hx hy
  have h48 : s.get (.x xmm0) / 281474976710656 % 65536 = 16384 := by omega
  have hl : ilog2 32 = 5 := ilog2_eq 32 5 (by decide) (by decide) (by decide)
  refine ⟨(fast_pow.L_2TAG_PACKET_1_0_2_2 cpu (fast_pow.L_2TAG_PACKET_1_0_2_1 cpu (fast_pow.B1_2_2 cpu (fast_pow.B1_2_1 cpu (fast_pow.start_1 cpu (fast_pow.entry_1 cpu s)))))), ?_, ?_, ?_, ?_, ?_, ?_, ?_, ?_, ?_, ?_, ?_, ?_, ?_, ?_, ?_⟩
  rotate_left
  · set_option maxRecDepth 8000 in
    simp only [
        ↓reduceIte, ↓fast_pow.pow_L_2TAG_PACKET_1_0_2_2_sem,
        ↓fast_pow.pow_L_2TAG_PACKET_1_0_2_1_sem, ↓fast_pow.pow_B1_2_2_sem,
        ↓fast_pow.pow_B1_2_1_sem, ↓fast_pow.pow_start_1_sem, ↓fast_pow.pow_entry_1_sem,
        hx, hy, h48, hl, or_mod64, Nat.zero_add, Nat.mul_mod_right, Nat.zero_div,
        Nat.zero_mod, Nat.add_mul_mod_self_left, Nat.mod_mod, ↓Machine.get_setx,
        ↓Machine.get_setg, ↓Machine.get_setstk, ↓Machine.get_enter, ↓Machine.get_setFlags,
        ↓Machine.trace_set, ↓Machine.get_ite, ↓Machine.trace_ite, ↓Machine.obs_eq_get,
        ↓Machine.flags_get, ↓Machine.flags_trace, ↓sem_get_1, ↓sem_get_2, ↓sem_get_3,
        ↓sem_get_4, ↓sem_trace_1, ↓sem_trace_2, ↓sem_trace_3, ↓sem_trace_4, ↓load_const,
        cc_iff, ea, and_imm, and_imm_left, ilog2_lit, or_eq_zero, or_mod32, or_lt_2p31,
        Nat.mod_mod, Nat.zero_or, Nat.or_zero, Nat.sub_zero, Nat.add_mod_right, lane_eq,
        Machine.io_eq_get, Nat.xor_self, Loc.x.injEq, Loc.g.injEq, Loc.m.injEq,
        Bool.toNat_eq_zero, Bool.toNat_eq_one, Nat.reducePow, Nat.reduceMul,
        Nat.reduceMod, Nat.reduceAdd, Nat.reduceSub, Nat.reduceDiv, Nat.reduceEqDiff,
        Nat.reduceLTLE, Nat.reduceLeDiff, Nat.reduceLT, Nat.reduceGT, Nat.reduceOr,
        Nat.reduceXor, reduceCtorEq, Bool.not_eq_true', Bool.not_eq_true,
        decide_eq_true_eq, decide_eq_false_iff_not, Bool.and_eq_true, Bool.or_eq_true,
        bne_iff_ne, beq_iff_eq, ne_eq, Bool.not_eq_false', Bool.not_eq_false, decide_not,
        not_not, Bool.decide_eq_true, Bool.false_eq_true, Bool.true_eq_false,
        not_false_eq_true, not_true_eq_false, and_true, true_and, and_false, false_and,
        or_true, true_or, or_false, false_or, not_true, not_false_iff, iff_self, true_iff,
        iff_true, false_iff, iff_false, ite_self, decide_eq_decide, decide_False,
        decide_True, Bool.not_true, Bool.not_false]
  · set_option maxRecDepth 8000 in
    simp only [
        ↓reduceIte, ↓fast_pow.pow_L_2TAG_PACKET_1_0_2_2_sem,
        ↓fast_pow.pow_L_2TAG_PACKET_1_0_2_1_sem, ↓fast_pow.pow_B1_2_2_sem,
        ↓fast_pow.pow_B1_2_1_sem, ↓fast_pow.pow_start_1_sem, ↓fast_pow.pow_entry_1_sem,
        hx, hy, h48, hl, or_mod64, Nat.zero_add, Nat.mul_mod_right, Nat.zero_div,
        Nat.zero_mod, Nat.add_mul_mod_self_left, Nat.mod_mod, ↓Machine.get_setx,
        ↓Machine.get_setg, ↓Machine.get_setstk, ↓Machine.get_enter, ↓Machine.get_setFlags,
        ↓Machine.trace_set, ↓Machine.get_ite, ↓Machine.trace_ite, ↓Machine.obs_eq_get,
        ↓Machine.flags_get, ↓Machine.flags_trace, ↓sem_get_1, ↓sem_get_2, ↓sem_get_3,
        ↓sem_get_4, ↓sem_trace_1, ↓sem_trace_2, ↓sem_trace_3, ↓sem_trace_4, ↓load_const,
        cc_iff, ea, and_imm, and_imm_left, ilog2_lit, or_eq_zero, or_mod32, or_lt_2p31,
        Nat.mod_mod, Nat.zero_or, Nat.or_zero, Nat.sub_zero, Nat.add_mod_right, lane_eq,
        Machine.io_eq_get, Nat.xor_self, Loc.x.injEq, Loc.g.injEq, Loc.m.injEq,
        Bool.toNat_eq_zero, Bool.toNat_eq_one, Nat.reducePow, Nat.reduceMul,
        Nat.reduceMod, Nat.reduceAdd, Nat.reduceSub, Nat.reduceDiv, Nat.reduceEqDiff,
        Nat.reduceLTLE, Nat.reduceLeDiff, Nat.reduceLT, Nat.reduceGT, Nat.reduceOr,
        Nat.reduceXor, reduceCtorEq, Bool.not_eq_true', Bool.not_eq_true,
        decide_eq_true_eq, decide_eq_false_iff_not, Bool.and_eq_true, Bool.or_eq_true,
        bne_iff_ne, beq_iff_eq, ne_eq, Bool.not_eq_false', Bool.not_eq_false, decide_not,
        not_not, Bool.decide_eq_true, Bool.false_eq_true, Bool.true_eq_false,
        not_false_eq_true, not_true_eq_false, and_true, true_and, and_false, false_and,
        or_true, true_or, or_false, false_or, not_true, not_false_iff, iff_self, true_iff,
        iff_true, false_iff, iff_false, ite_self, decide_eq_decide, decide_False,
        decide_True, Bool.not_true, Bool.not_false]
  · set_option maxRecDepth 8000 in
    simp only [
        ↓reduceIte, ↓fast_pow.pow_L_2TAG_PACKET_1_0_2_2_sem,
        ↓fast_pow.pow_L_2TAG_PACKET_1_0_2_1_sem, ↓fast_pow.pow_B1_2_2_sem,
        ↓fast_pow.pow_B1_2_1_sem, ↓fast_pow.pow_start_1_sem, ↓fast_pow.pow_entry_1_sem,
        hx, hy, h48, hl, or_mod64, Nat.zero_add, Nat.mul_mod_right, Nat.zero_div,
        Nat.zero_mod, Nat.add_mul_mod_self_left, Nat.mod_mod, ↓Machine.get_setx,
        ↓Machine.get_setg, ↓Machine.get_setstk, ↓Machine.get_enter, ↓Machine.get_setFlags,
        ↓Machine.trace_set, ↓Machine.get_ite, ↓Machine.trace_ite, ↓Machine.obs_eq_get,
        ↓Machine.flags_get, ↓Machine.flags_trace, ↓sem_get_1, ↓sem_get_2, ↓sem_get_3,
        ↓sem_get_4, ↓sem_trace_1, ↓sem_trace_2, ↓sem_trace_3, ↓sem_trace_4, ↓load_const,
        cc_iff, ea, and_imm, and_imm_left, ilog2_lit, or_eq_zero, or_mod32, or_lt_2p31,
        Nat.mod_mod, Nat.zero_or, Nat.or_zero, Nat.sub_zero, Nat.add_mod_right, lane_eq,
        Machine.io_eq_get, Nat.xor_self, Loc.x.injEq, Loc.g.injEq, Loc.m.injEq,
        Bool.toNat_eq_zero, Bool.toNat_eq_one, Nat.reducePow, Nat.reduceMul,
        Nat.reduceMod, Nat.reduceAdd, Nat.reduceSub, Nat.reduceDiv, Nat.reduceEqDiff,
        Nat.reduceLTLE, Nat.reduceLeDiff, Nat.reduceLT, Nat.reduceGT, Nat.reduceOr,
        Nat.reduceXor, reduceCtorEq, Bool.not_eq_true', Bool.not_eq_true,
        decide_eq_true_eq, decide_eq_false_iff_not, Bool.and_eq_true, Bool.or_eq_true,
        bne_iff_ne, beq_iff_eq, ne_eq, Bool.not_eq_false', Bool.not_eq_false, decide_not,
        not_not, Bool.decide_eq_true, Bool.false_eq_true, Bool.true_eq_false,
        not_false_eq_true, not_true_eq_false, and_true, true_and, and_false, false_and,
        or_true, true_or, or_false, false_or, not_true, not_false_iff, iff_self, true_iff,
        iff_true, false_iff, iff_false, ite_self, decide_eq_decide, decide_False,
        decide_True, Bool.not_true, Bool.not_false]
  · set_option maxRecDepth 8000 in
    simp only [
        ↓reduceIte, ↓fast_pow.pow_L_2TAG_PACKET_1_0_2_2_sem,
        ↓fast_pow.pow_L_2TAG_PACKET_1_0_2_1_sem, ↓fast_pow.pow_B1_2_2_sem,
        ↓fast_pow.pow_B1_2_1_sem, ↓fast_pow.pow_start_1_sem, ↓fast_pow.pow_entry_1_sem,
        hx, hy, h48, hl, or_mod64, Nat.zero_add, Nat.mul_mod_right, Nat.zero_div,
        Nat.zero_mod, Nat.add_mul_mod_self_left, Nat.mod_mod, ↓Machine.get_setx,
        ↓Machine.get_setg, ↓Machine.get_setstk, ↓Machine.get_enter, ↓Machine.get_setFlags,
        ↓Machine.trace_set, ↓Machine.get_ite, ↓Machine.trace_ite, ↓Machine.obs_eq_get,
        ↓Machine.flags_get, ↓Machine.flags_trace, ↓sem_get_1, ↓sem_get_2, ↓sem_get_3,
        ↓sem_get_4, ↓sem_trace_1, ↓sem_trace_2, ↓sem_trace_3, ↓sem_trace_4, ↓load_const,
        cc_iff, ea, and_imm, and_imm_left, ilog2_lit, or_eq_zero, or_mod32, or_lt_2p31,
        Nat.mod_mod, Nat.zero_or, Nat.or_zero, Nat.sub_zero, Nat.add_mod_right, lane_eq,
        Machine.io_eq_get, Nat.xor_self, Loc.x.injEq, Loc.g.injEq, Loc.m.injEq,
        Bool.toNat_eq_zero, Bool.toNat_eq_one, Nat.reducePow, Nat.reduceMul,
        Nat.reduceMod, Nat.reduceAdd, Nat.reduceSub, Nat.reduceDiv, Nat.reduceEqDiff,
        Nat.reduceLTLE, Nat.reduceLeDiff, Nat.reduceLT, Nat.reduceGT, Nat.reduceOr,
        Nat.reduceXor, reduceCtorEq, Bool.not_eq_true', Bool.not_eq_true,
        decide_eq_true_eq, decide_eq_false_iff_not, Bool.and_eq_true, Bool.or_eq_true,
        bne_iff_ne, beq_iff_eq, ne_eq, Bool.not_eq_false', Bool.not_eq_false, decide_not,
        not_not, Bool.decide_eq_true, Bool.false_eq_true, Bool.true_eq_false,
        not_false_eq_true, not_true_eq_false, and_true, true_and, and_false, false_and,
        or_true, true_or, or_false, false_or, not_true, not_false_iff, iff_self, true_iff,
        iff_true, false_iff, iff_false, ite_self, decide_eq_decide, decide_False,
        decide_True, Bool.not_true, Bool.not_false]
  · set_option maxRecDepth 8000 in
    simp only [
        ↓reduceIte, ↓fast_pow.pow_L_2TAG_PACKET_1_0_2_2_sem,
        ↓fast_pow.pow_L_2TAG_PACKET_1_0_2_1_sem, ↓fast_pow.pow_B1_2_2_sem,
        ↓fast_pow.pow_B1_2_1_sem, ↓fast_pow.pow_start_1_sem, ↓fast_pow.pow_entry_1_sem,
        hx, hy, h48, hl, or_mod64, Nat.zero_add, Nat.mul_mod_right, Nat.zero_div,
        Nat.zero_mod, Nat.add_mul_mod_self_left, Nat.mod_mod, and_mod_pow64,
        ↓Machine.get_setx, ↓Machine.get_setg, ↓Machine.get_setstk, ↓Machine.get_enter,
        ↓Machine.get_setFlags, ↓Machine.trace_set, ↓Machine.get_ite, ↓Machine.trace_ite,
        ↓Machine.obs_eq_get, ↓Machine.flags_get, ↓Machine.flags_trace, ↓sem_get_1,
        ↓sem_get_2, ↓sem_get_3, ↓sem_get_4, ↓sem_trace_1, ↓sem_trace_2, ↓sem_trace_3,
        ↓sem_trace_4, ↓load_const, cc_iff, ea, and_imm, and_imm_left, ilog2_lit,
        or_eq_zero, or_mod32, or_lt_2p31, Nat.mod_mod, Nat.zero_or, Nat.or_zero,
        Nat.sub_zero, Nat.add_mod_right, lane_eq, Machine.io_eq_get, Nat.xor_self,
        Loc.x.injEq, Loc.g.injEq, Loc.m.injEq, Bool.toNat_eq_zero, Bool.toNat_eq_one,
        Nat.reducePow, Nat.reduceMul, Nat.reduceMod, Nat.reduceAdd, Nat.reduceSub,
        Nat.reduceDiv, Nat.reduceEqDiff, Nat.reduceLTLE, Nat.reduceLeDiff, Nat.reduceLT,
        Nat.reduceGT, Nat.reduceOr, Nat.reduceXor, reduceCtorEq, Bool.not_eq_true',
        Bool.not_eq_true, decide_eq_true_eq, decide_eq_false_iff_not, Bool.and_eq_true,
        Bool.or_eq_true, bne_iff_ne, beq_iff_eq, ne_eq, Bool.not_eq_false',
        Bool.not_eq_false, decide_not, not_not, Bool.decide_eq_true, Bool.false_eq_true,
        Bool.true_eq_false, not_false_eq_true, not_true_eq_false, and_true, true_and,
        and_false, false_and, or_true, true_or, or_false, false_or, not_true,
        not_false_iff, iff_self, true_iff, iff_true, false_iff, iff_false, ite_self,
        decide_eq_decide, decide_False, decide_True, Bool.not_true, Bool.not_false]
    decide
  · set_option maxRecDepth 8000 in
    simp only [
        ↓reduceIte, ↓fast_pow.pow_L_2TAG_PACKET_1_0_2_2_sem,
        ↓fast_pow.pow_L_2TAG_PACKET_1_0_2_1_sem, ↓fast_pow.pow_B1_2_2_sem,
        ↓fast_pow.pow_B1_2_1_sem, ↓fast_pow.pow_start_1_sem, ↓fast_pow.pow_entry_1_sem,
        hx, hy, h48, hl, or_mod64, Nat.zero_add, Nat.mul_mod_right, Nat.zero_div,
        Nat.zero_mod, Nat.add_mul_mod_self_left, Nat.mod_mod, ↓Machine.get_setx,
        ↓Machine.get_setg, ↓Machine.get_setstk, ↓Machine.get_enter, ↓Machine.get_setFlags,
        ↓Machine.trace_set, ↓Machine.get_ite, ↓Machine.trace_ite, ↓Machine.obs_eq_get,
        ↓Machine.flags_get, ↓Machine.flags_trace, ↓sem_get_1, ↓sem_get_2, ↓sem_get_3,
        ↓sem_get_4, ↓sem_trace_1, ↓sem_trace_2, ↓sem_trace_3, ↓sem_trace_4, ↓load_const,
        cc_iff, ea, and_imm, and_imm_left, ilog2_lit, or_eq_zero, or_mod32, or_lt_2p31,
        Nat.mod_mod, Nat.zero_or, Nat.or_zero, Nat.sub_zero, Nat.add_mod_right, lane_eq,
        Machine.io_eq_get, Nat.xor_self, Loc.x.injEq, Loc.g.injEq, Loc.m.injEq,
        Bool.toNat_eq_zero, Bool.toNat_eq_one, Nat.reducePow, Nat.reduceMul,
        Nat.reduceMod, Nat.reduceAdd, Nat.reduceSub, Nat.reduceDiv, Nat.reduceEqDiff,
        Nat.reduceLTLE, Nat.reduceLeDiff, Nat.reduceLT, Nat.reduceGT, Nat.reduceOr,
        Nat.reduceXor, reduceCtorEq, Bool.not_eq_true', Bool.not_eq_true,
        decide_eq_true_eq, decide_eq_false_iff_not, Bool.and_eq_true, Bool.or_eq_true,
        bne_iff_ne, beq_iff_eq, ne_eq, Bool.not_eq_false', Bool.not_eq_false, decide_not,
        not_not, Bool.decide_eq_true, Bool.false_eq_true, Bool.true_eq_false,
        not_false_eq_true, not_true_eq_false, and_true, true_and, and_false, false_and,
        or_true, true_or, or_false, false_or, not_true, not_false_iff, iff_self, true_iff,
        iff_true, false_iff, iff_false, ite_self, decide_eq_decide, decide_False,
        decide_True, Bool.not_true, Bool.not_false]
  · set_option maxRecDepth 8000 in
    simp only [
        ↓reduceIte, ↓fast_pow.pow_L_2TAG_PACKET_1_0_2_2_sem,
        ↓fast_pow.pow_L_2TAG_PACKET_1_0_2_1_sem, ↓fast_pow.pow_B1_2_2_sem,
        ↓fast_pow.pow_B1_2_1_sem, ↓fast_pow.pow_start_1_sem, ↓fast_pow.pow_entry_1_sem,
        hx, hy, h48, hl, or_mod64, Nat.zero_add, Nat.mul_mod_right, Nat.zero_div,
        Nat.zero_mod, Nat.add_mul_mod_self_left, Nat.mod_mod, ↓Machine.get_setx,
        ↓Machine.get_setg, ↓Machine.get_setstk, ↓Machine.get_enter, ↓Machine.get_setFlags,
        ↓Machine.trace_set, ↓Machine.get_ite, ↓Machine.trace_ite, ↓Machine.obs_eq_get,
        ↓Machine.flags_get, ↓Machine.flags_trace, ↓sem_get_1, ↓sem_get_2, ↓sem_get_3,
        ↓sem_get_4, ↓sem_trace_1, ↓sem_trace_2, ↓sem_trace_3, ↓sem_trace_4, ↓load_const,
        cc_iff, ea, and_imm, and_imm_left, ilog2_lit, or_eq_zero, or_mod32, or_lt_2p31,
        Nat.mod_mod, Nat.zero_or, Nat.or_zero, Nat.sub_zero, Nat.add_mod_right, lane_eq,
        Machine.io_eq_get, Nat.xor_self, Loc.x.injEq, Loc.g.injEq, Loc.m.injEq,
        Bool.toNat_eq_zero, Bool.toNat_eq_one, Nat.reducePow, Nat.reduceMul,
        Nat.reduceMod, Nat.reduceAdd, Nat.reduceSub, Nat.reduceDiv, Nat.reduceEqDiff,
        Nat.reduceLTLE, Nat.reduceLeDiff, Nat.reduceLT, Nat.reduceGT, Nat.reduceOr,
        Nat.reduceXor, reduceCtorEq, Bool.not_eq_true', Bool.not_eq_true,
        decide_eq_true_eq, decide_eq_false_iff_not, Bool.and_eq_true, Bool.or_eq_true,
        bne_iff_ne, beq_iff_eq, ne_eq, Bool.not_eq_false', Bool.not_eq_false, decide_not,
        not_not, Bool.decide_eq_true, Bool.false_eq_true, Bool.true_eq_false,
        not_false_eq_true, not_true_eq_false, and_true, true_and, and_false, false_and,
        or_true, true_or, or_false, false_or, not_true, not_false_iff, iff_self, true_iff,
        iff_true, false_iff, iff_false, ite_self, decide_eq_decide, decide_False,
        decide_True, Bool.not_true, Bool.not_false]
  · set_option maxRecDepth 8000 in
    simp only [
        ↓reduceIte, ↓fast_pow.pow_L_2TAG_PACKET_1_0_2_2_sem,
        ↓fast_pow.pow_L_2TAG_PACKET_1_0_2_1_sem, ↓fast_pow.pow_B1_2_2_sem,
        ↓fast_pow.pow_B1_2_1_sem, ↓fast_pow.pow_start_1_sem, ↓fast_pow.pow_entry_1_sem,
        hx, hy, h48, hl, or_mod64, Nat.zero_add, Nat.mul_mod_right, Nat.zero_div,
        Nat.zero_mod, Nat.add_mul_mod_self_left, Nat.mod_mod, ↓Machine.get_setx,
        ↓Machine.get_setg, ↓Machine.get_setstk, ↓Machine.get_enter, ↓Machine.get_setFlags,
        ↓Machine.trace_set, ↓Machine.get_ite, ↓Machine.trace_ite, ↓Machine.obs_eq_get,
        ↓Machine.flags_get, ↓Machine.flags_trace, ↓sem_get_1, ↓sem_get_2, ↓sem_get_3,
        ↓sem_get_4, ↓sem_trace_1, ↓sem_trace_2, ↓sem_trace_3, ↓sem_trace_4, ↓load_const,
        cc_iff, ea, and_imm, and_imm_left, ilog2_lit, or_eq_zero, or_mod32, or_lt_2p31,
        Nat.mod_mod, Nat.zero_or, Nat.or_zero, Nat.sub_zero, Nat.add_mod_right, lane_eq,
        Machine.io_eq_get, Nat.xor_self, Loc.x.injEq, Loc.g.injEq, Loc.m.injEq,
        Bool.toNat_eq_zero, Bool.toNat_eq_one, Nat.reducePow, Nat.reduceMul,
        Nat.reduceMod, Nat.reduceAdd, Nat.reduceSub, Nat.reduceDiv, Nat.reduceEqDiff,
        Nat.reduceLTLE, Nat.reduceLeDiff, Nat.reduceLT, Nat.reduceGT, Nat.reduceOr,
        Nat.reduceXor, reduceCtorEq, Bool.not_eq_true', Bool.not_eq_true,
        decide_eq_true_eq, decide_eq_false_iff_not, Bool.and_eq_true, Bool.or_eq_true,
        bne_iff_ne, beq_iff_eq, ne_eq, Bool.not_eq_false', Bool.not_eq_false, decide_not,
        not_not, Bool.decide_eq_true, Bool.false_eq_true, Bool.true_eq_false,
        not_false_eq_true, not_true_eq_false, and_true, true_and, and_false, false_and,
        or_true, true_or, or_false, false_or, not_true, not_false_iff, iff_self, true_iff,
        iff_true, false_iff, iff_false, ite_self, decide_eq_decide, decide_False,
        decide_True, Bool.not_true, Bool.not_false]
  · set_option maxRecDepth 8000 in
    simp only [
        ↓reduceIte, ↓fast_pow.pow_L_2TAG_PACKET_1_0_2_2_sem,
        ↓fast_pow.pow_L_2TAG_PACKET_1_0_2_1_sem, ↓fast_pow.pow_B1_2_2_sem,
        ↓fast_pow.pow_B1_2_1_sem, ↓fast_pow.pow_start_1_sem, ↓fast_pow.pow_entry_1_sem,
        hx, hy, h48, hl, or_mod64, Nat.zero_add, Nat.mul_mod_right, Nat.zero_div,
        Nat.zero_mod, Nat.add_mul_mod_self_left, Nat.mod_mod, ↓Machine.get_setx,
        ↓Machine.get_setg, ↓Machine.get_setstk, ↓Machine.get_enter, ↓Machine.get_setFlags,
        ↓Machine.trace_set, ↓Machine.get_ite, ↓Machine.trace_ite, ↓Machine.obs_eq_get,
        ↓Machine.flags_get, ↓Machine.flags_trace, ↓sem_get_1, ↓sem_get_2, ↓sem_get_3,
        ↓sem_get_4, ↓sem_trace_1, ↓sem_trace_2, ↓sem_trace_3, ↓sem_trace_4, ↓load_const,
        cc_iff, ea, and_imm, and_imm_left, ilog2_lit, or_eq_zero, or_mod32, or_lt_2p31,
        Nat.mod_mod, Nat.zero_or, Nat.or_zero, Nat.sub_zero, Nat.add_mod_right, lane_eq,
        Machine.io_eq_get, Nat.xor_self, Loc.x.injEq, Loc.g.injEq, Loc.m.injEq,
        Bool.toNat_eq_zero, Bool.toNat_eq_one, Nat.reducePow, Nat.reduceMul,
        Nat.reduceMod, Nat.reduceAdd, Nat.reduceSub, Nat.reduceDiv, Nat.reduceEqDiff,
        Nat.reduceLTLE, Nat.reduceLeDiff, Nat.reduceLT, Nat.reduceGT, Nat.reduceOr,
        Nat.reduceXor, reduceCtorEq, Bool.not_eq_true', Bool.not_eq_true,
        decide_eq_true_eq, decide_eq_false_iff_not, Bool.and_eq_true, Bool.or_eq_true,
        bne_iff_ne, beq_iff_eq, ne_eq, Bool.not_eq_false', Bool.not_eq_false, decide_not,
        not_not, Bool.decide_eq_true, Bool.false_eq_true, Bool.true_eq_false,
        not_false_eq_true, not_true_eq_false, and_true, true_and, and_false, false_and,
        or_true, true_or, or_false, false_or, not_true, not_false_iff, iff_self, true_iff,
        iff_true, false_iff, iff_false, ite_self, decide_eq_decide, decide_False,
        decide_True, Bool.not_true, Bool.not_false]
  · set_option maxRecDepth 8000 in
    simp only [
        ↓reduceIte, ↓fast_pow.pow_L_2TAG_PACKET_1_0_2_2_sem,
        ↓fast_pow.pow_L_2TAG_PACKET_1_0_2_1_sem, ↓fast_pow.pow_B1_2_2_sem,
        ↓fast_pow.pow_B1_2_1_sem, ↓fast_pow.pow_start_1_sem, ↓fast_pow.pow_entry_1_sem,
        hx, hy, h48, hl, or_mod64, Nat.zero_add, Nat.mul_mod_right, Nat.zero_div,
        Nat.zero_mod, Nat.add_mul_mod_self_left, Nat.mod_mod, ↓Machine.get_setx,
        ↓Machine.get_setg, ↓Machine.get_setstk, ↓Machine.get_enter, ↓Machine.get_setFlags,
        ↓Machine.trace_set, ↓Machine.get_ite, ↓Machine.trace_ite, ↓Machine.obs_eq_get,
        ↓Machine.flags_get, ↓Machine.flags_trace, ↓sem_get_1, ↓sem_get_2, ↓sem_get_3,
        ↓sem_get_4, ↓sem_trace_1, ↓sem_trace_2, ↓sem_trace_3, ↓sem_trace_4, ↓load_const,
        cc_iff, ea, and_imm, and_imm_left, ilog2_lit, or_eq_zero, or_mod32, or_lt_2p31,
        Nat.mod_mod, Nat.zero_or, Nat.or_zero, Nat.sub_zero, Nat.add_mod_right, lane_eq,
        Machine.io_eq_get, Nat.xor_self, Loc.x.injEq, Loc.g.injEq, Loc.m.injEq,
        Bool.toNat_eq_zero, Bool.toNat_eq_one, Nat.reducePow, Nat.reduceMul,
        Nat.reduceMod, Nat.reduceAdd, Nat.reduceSub, Nat.reduceDiv, Nat.reduceEqDiff,
        Nat.reduceLTLE, Nat.reduceLeDiff, Nat.reduceLT, Nat.reduceGT, Nat.reduceOr,
        Nat.reduceXor, reduceCtorEq, Bool.not_eq_true', Bool.not_eq_true,
        decide_eq_true_eq, decide_eq_false_iff_not, Bool.and_eq_true, Bool.or_eq_true,
        bne_iff_ne, beq_iff_eq, ne_eq, Bool.not_eq_false', Bool.not_eq_false, decide_not,
        not_not, Bool.decide_eq_true, Bool.false_eq_true, Bool.true_eq_false,
        not_false_eq_true, not_true_eq_false, and_true, true_and, and_false, false_and,
        or_true, true_or, or_false, false_or, not_true, not_false_iff, iff_self, true_iff,
        iff_true, false_iff, iff_false, ite_self, decide_eq_decide, decide_False,
        decide_True, Bool.not_true, Bool.not_false]
  · set_option maxRecDepth 8000 in
    simp only [
        ↓reduceIte, ↓fast_pow.pow_L_2TAG_PACKET_1_0_2_2_sem,
        ↓fast_pow.pow_L_2TAG_PACKET_1_0_2_1_sem, ↓fast_pow.pow_B1_2_2_sem,
        ↓fast_pow.pow_B1_2_1_sem, ↓fast_pow.pow_start_1_sem, ↓fast_pow.pow_entry_1_sem,
        hx, hy, h48, hl, or_mod64, Nat.zero_add, Nat.mul_mod_right, Nat.zero_div,
        Nat.zero_mod, Nat.add_mul_mod_self_left, Nat.mod_mod, ↓Machine.get_setx,
        ↓Machine.get_setg, ↓Machine.get_setstk, ↓Machine.get_enter, ↓Machine.get_setFlags,
        ↓Machine.trace_set, ↓Machine.get_ite, ↓Machine.trace_ite, ↓Machine.obs_eq_get,
        ↓Machine.flags_get, ↓Machine.flags_trace, ↓sem_get_1, ↓sem_get_2, ↓sem_get_3,
        ↓sem_get_4, ↓sem_trace_1, ↓sem_trace_2, ↓sem_trace_3, ↓sem_trace_4, ↓load_const,
        cc_iff, ea, and_imm, and_imm_left, ilog2_lit, or_eq_zero, or_mod32, or_lt_2p31,
        Nat.mod_mod, Nat.zero_or, Nat.or_zero, Nat.sub_zero, Nat.add_mod_right, lane_eq,
        Machine.io_eq_get, Nat.xor_self, Loc.x.injEq, Loc.g.injEq, Loc.m.injEq,
        Bool.toNat_eq_zero, Bool.toNat_eq_one, Nat.reducePow, Nat.reduceMul,
        Nat.reduceMod, Nat.reduceAdd, Nat.reduceSub, Nat.reduceDiv, Nat.reduceEqDiff,
        Nat.reduceLTLE, Nat.reduceLeDiff, Nat.reduceLT, Nat.reduceGT, Nat.reduceOr,
        Nat.reduceXor, reduceCtorEq, Bool.not_eq_true', Bool.not_eq_true,
        decide_eq_true_eq, decide_eq_false_iff_not, Bool.and_eq_true, Bool.or_eq_true,
        bne_iff_ne, beq_iff_eq, ne_eq, Bool.not_eq_false', Bool.not_eq_false, decide_not,
        not_not, Bool.decide_eq_true, Bool.false_eq_true, Bool.true_eq_false,
        not_false_eq_true, not_true_eq_false, and_true, true_and, and_false, false_and,
        or_true, true_or, or_false, false_or, not_true, not_false_iff, iff_self, true_iff,
        iff_true, false_iff, iff_false, ite_self, decide_eq_decide, decide_False,
        decide_True, Bool.not_true, Bool.not_false]
  · set_option maxRecDepth 8000 in
    simp only [
        ↓reduceIte, ↓fast_pow.pow_L_2TAG_PACKET_1_0_2_2_sem,
        ↓fast_pow.pow_L_2TAG_PACKET_1_0_2_1_sem, ↓fast_pow.pow_B1_2_2_sem,
        ↓fast_pow.pow_B1_2_1_sem, ↓fast_pow.pow_start_1_sem, ↓fast_pow.pow_entry_1_sem,
        hx, hy, h48, hl, or_mod64, Nat.zero_add, Nat.mul_mod_right, Nat.zero_div,
        Nat.zero_mod, Nat.add_mul_mod_self_left, Nat.mod_mod, ↓Machine.get_setx,
        ↓Machine.get_setg, ↓Machine.get_setstk, ↓Machine.get_enter, ↓Machine.get_setFlags,
        ↓Machine.trace_set, ↓Machine.get_ite, ↓Machine.trace_ite, ↓Machine.obs_eq_get,
        ↓Machine.flags_get, ↓Machine.flags_trace, ↓sem_get_1, ↓sem_get_2, ↓sem_get_3,
        ↓sem_get_4, ↓sem_trace_1, ↓sem_trace_2, ↓sem_trace_3, ↓sem_trace_4, ↓load_const,
        cc_iff, ea, and_imm, and_imm_left, ilog2_lit, or_eq_zero, or_mod32, or_lt_2p31,
        Nat.mod_mod, Nat.zero_or, Nat.or_zero, Nat.sub_zero, Nat.add_mod_right, lane_eq,
        Machine.io_eq_get, Nat.xor_self, Loc.x.injEq, Loc.g.injEq, Loc.m.injEq,
        Bool.toNat_eq_zero, Bool.toNat_eq_one, Nat.reducePow, Nat.reduceMul,
        Nat.reduceMod, Nat.reduceAdd, Nat.reduceSub, Nat.reduceDiv, Nat.reduceEqDiff,
        Nat.reduceLTLE, Nat.reduceLeDiff, Nat.reduceLT, Nat.reduceGT, Nat.reduceOr,
        Nat.reduceXor, reduceCtorEq, Bool.not_eq_true', Bool.not_eq_true,
        decide_eq_true_eq, decide_eq_false_iff_not, Bool.and_eq_true, Bool.or_eq_true,
        bne_iff_ne, beq_iff_eq, ne_eq, Bool.not_eq_false', Bool.not_eq_false, decide_not,
        not_not, Bool.decide_eq_true, Bool.false_eq_true, Bool.true_eq_false,
        not_false_eq_true, not_true_eq_false, and_true, true_and, and_false, false_and,
        or_true, true_or, or_false, false_or, not_true, not_false_iff, iff_self, true_iff,
        iff_true, false_iff, iff_false, ite_self, decide_eq_decide, decide_False,
        decide_True, Bool.not_true, Bool.not_false]
  · set_option maxRecDepth 8000 in
    simp only [
        ↓reduceIte, ↓fast_pow.pow_L_2TAG_PACKET_1_0_2_2_sem,
        ↓fast_pow.pow_L_2TAG_PACKET_1_0_2_1_sem, ↓fast_pow.pow_B1_2_2_sem,
        ↓fast_pow.pow_B1_2_1_sem, ↓fast_pow.pow_start_1_sem, ↓fast_pow.pow_entry_1_sem,
        hx, hy, h48, hl, or_mod64, Nat.zero_add, Nat.mul_mod_right, Nat.zero_div,
        Nat.zero_mod, Nat.add_mul_mod_self_left, Nat.mod_mod, mkdw_one, mk128_one,
        mkdw_dw0, mk128_dw0, mkdw_dw1, mk128_dw1, mkqw_dw0, mkqw_dw1, mkqw_one,
        mulss_norm, mkdw_lo, Nat.mod_div_self, Nat.div_one, Nat.add_zero, Nat.div_eq_of_lt
        hF, Nat.mod_eq_of_lt hF, ↓Machine.get_setx, ↓Machine.get_setg,
        ↓Machine.get_setstk, ↓Machine.get_enter, ↓Machine.get_setFlags,
        ↓Machine.trace_set, ↓Machine.get_ite, ↓Machine.trace_ite, ↓Machine.obs_eq_get,
        ↓Machine.flags_get, ↓Machine.flags_trace, ↓sem_get_1, ↓sem_get_2, ↓sem_get_3,
        ↓sem_get_4, ↓sem_trace_1, ↓sem_trace_2, ↓sem_trace_3, ↓sem_trace_4, ↓load_const,
        cc_iff, ea, and_imm, and_imm_left, ilog2_lit, or_eq_zero, or_mod32, or_lt_2p31,
        Nat.mod_mod, Nat.zero_or, Nat.or_zero, Nat.sub_zero, Nat.add_mod_right, lane_eq,
        Machine.io_eq_get, Nat.xor_self, Loc.x.injEq, Loc.g.injEq, Loc.m.injEq,
        Bool.toNat_eq_zero, Bool.toNat_eq_one, Nat.reducePow, Nat.reduceMul,
        Nat.reduceMod, Nat.reduceAdd, Nat.reduceSub, Nat.reduceDiv, Nat.reduceEqDiff,
        Nat.reduceLTLE, Nat.reduceLeDiff, Nat.reduceLT, Nat.reduceGT, Nat.reduceOr,
        Nat.reduceXor, reduceCtorEq, Bool.not_eq_true', Bool.not_eq_true,
        decide_eq_true_eq, decide_eq_false_iff_not, Bool.and_eq_true, Bool.or_eq_true,
        bne_iff_ne, beq_iff_eq, ne_eq, Bool.not_eq_false', Bool.not_eq_false, decide_not,
        not_not, Bool.decide_eq_true, Bool.false_eq_true, Bool.true_eq_false,
        not_false_eq_true, not_true_eq_false, and_true, true_and, and_false, false_and,
        or_true, true_or, or_false, false_or, not_true, not_false_iff, iff_self, true_iff,
        iff_true, false_iff, iff_false, ite_self, decide_eq_decide, decide_False,
        decide_True, Bool.not_true, Bool.not_false]
    all_goals omega
  · set_option maxRecDepth 8000 in
    simp only [
        ↓reduceIte, ↓fast_pow.pow_L_2TAG_PACKET_1_0_2_2_sem,
        ↓fast_pow.pow_L_2TAG_PACKET_1_0_2_1_sem, ↓fast_pow.pow_B1_2_2_sem,
        ↓fast_pow.pow_B1_2_1_sem, ↓fast_pow.pow_start_1_sem, ↓fast_pow.pow_entry_1_sem,
        hx, hy, h48, hl, or_mod64, Nat.zero_add, Nat.mul_mod_right, Nat.zero_div,
        Nat.zero_mod, Nat.add_mul_mod_self_left, Nat.mod_mod, mkdw_one, mk128_one,
        mkdw_dw0, mk128_dw0, mkdw_dw1, mk128_dw1, mkqw_dw0, mkqw_dw1, mkqw_one,
        mulss_norm, mkdw_lo, Nat.mod_div_self, Nat.div_one, Nat.add_zero, Nat.div_eq_of_lt
        hF, Nat.mod_eq_of_lt hF, ↓Machine.get_setx, ↓Machine.get_setg,
        ↓Machine.get_setstk, ↓Machine.get_enter, ↓Machine.get_setFlags,
        ↓Machine.trace_set, ↓Machine.get_ite, ↓Machine.trace_ite, ↓Machine.obs_eq_get,
        ↓Machine.flags_get, ↓Machine.flags_trace, ↓sem_get_1, ↓sem_get_2, ↓sem_get_3,
        ↓sem_get_4, ↓sem_trace_1, ↓sem_trace_2, ↓sem_trace_3, ↓sem_trace_4, ↓load_const,
        cc_iff, ea, and_imm, and_imm_left, ilog2_lit, or_eq_zero, or_mod32, or_lt_2p31,
        Nat.mod_mod, Nat.zero_or, Nat.or_zero, Nat.sub_zero, Nat.add_mod_right, lane_eq,
        Machine.io_eq_get, Nat.xor_self, Loc.x.injEq, Loc.g.injEq, Loc.m.injEq,
        Bool.toNat_eq_zero, Bool.toNat_eq_one, Nat.reducePow, Nat.reduceMul,
        Nat.reduceMod, Nat.reduceAdd, Nat.reduceSub, Nat.reduceDiv, Nat.reduceEqDiff,
        Nat.reduceLTLE, Nat.reduceLeDiff, Nat.reduceLT, Nat.reduceGT, Nat.reduceOr,
        Nat.reduceXor, reduceCtorEq, Bool.not_eq_true', Bool.not_eq_true,
        decide_eq_true_eq, decide_eq_false_iff_not, Bool.and_eq_true, Bool.or_eq_true,
        bne_iff_ne, beq_iff_eq, ne_eq, Bool.not_eq_false', Bool.not_eq_false, decide_not,
        not_not, Bool.decide_eq_true, Bool.false_eq_true, Bool.true_eq_false,
        not_false_eq_true, not_true_eq_false, and_true, true_and, and_false, false_and,
        or_true, true_or, or_false, false_or, not_true, not_false_iff, iff_self, true_iff,
        iff_true, false_iff, iff_false, ite_self, decide_eq_decide, decide_False,
        decide_True, Bool.not_true, Bool.not_false]
    all_goals omega
  rw [
      fast_pow, fast_pow.pow_entry_eq, fast_pow.pow_start_eq, fast_pow.pow_B1_2_eq, if_neg,
      fast_pow.pow_L_2TAG_PACKET_1_0_2_eq, if_neg]
  · set_option maxRecDepth 8000 in
    simp only [
        ↓reduceIte, hx, hy, h48, ↓fast_pow.pow_L_2TAG_PACKET_1_0_2_1_sem,
        ↓fast_pow.pow_B1_2_2_sem, ↓fast_pow.pow_B1_2_1_sem, ↓fast_pow.pow_start_1_sem,
        ↓fast_pow.pow_entry_1_sem, ↓Machine.get_setx, ↓Machine.get_setg,
        ↓Machine.get_setstk, ↓Machine.get_enter, ↓Machine.get_setFlags,
        ↓Machine.trace_set, ↓Machine.get_ite, ↓Machine.trace_ite, ↓Machine.obs_eq_get,
        ↓Machine.flags_get, ↓Machine.flags_trace, ↓sem_get_1, ↓sem_get_2, ↓sem_get_3,
        ↓sem_get_4, ↓sem_trace_1, ↓sem_trace_2, ↓sem_trace_3, ↓sem_trace_4, ↓load_const,
        cc_iff, ea, and_imm, and_imm_left, ilog2_lit, or_eq_zero, or_mod32, or_lt_2p31,
        Nat.mod_mod, Nat.zero_or, Nat.or_zero, Nat.sub_zero, Nat.add_mod_right, lane_eq,
        Machine.io_eq_get, Nat.xor_self, Loc.x.injEq, Loc.g.injEq, Loc.m.injEq,
        Bool.toNat_eq_zero, Bool.toNat_eq_one, Nat.reducePow, Nat.reduceMul,
        Nat.reduceMod, Nat.reduceAdd, Nat.reduceSub, Nat.reduceDiv, Nat.reduceEqDiff,
        Nat.reduceLTLE, Nat.reduceLeDiff, Nat.reduceLT, Nat.reduceGT, Nat.reduceOr,
        Nat.reduceXor, reduceCtorEq, Bool.not_eq_true', Bool.not_eq_true,
        decide_eq_true_eq, decide_eq_false_iff_not, Bool.and_eq_true, Bool.or_eq_true,
        bne_iff_ne, beq_iff_eq, ne_eq, Bool.not_eq_false', Bool.not_eq_false, decide_not,
        not_not, Bool.decide_eq_true, Bool.false_eq_true, Bool.true_eq_false,
        not_false_eq_true, not_true_eq_false, and_true, true_and, and_false, false_and,
        or_true, true_or, or_false, false_or, not_true, not_false_iff, iff_self, true_iff,
        iff_true, false_iff, iff_false, ite_self, decide_eq_decide, decide_False,
        decide_True, Bool.not_true, Bool.not_false]
    all_goals omega
  · set_option maxRecDepth 8000 in
    simp only [
        ↓reduceIte, hx, hy, h48, ↓fast_pow.pow_B1_2_1_sem, ↓fast_pow.pow_start_1_sem,
        ↓fast_pow.pow_entry_1_sem, ↓Machine.get_setx, ↓Machine.get_setg,
        ↓Machine.get_setstk, ↓Machine.get_enter, ↓Machine.get_setFlags,
        ↓Machine.trace_set, ↓Machine.get_ite, ↓Machine.trace_ite, ↓Machine.obs_eq_get,
        ↓Machine.flags_get, ↓Machine.flags_trace, ↓sem_get_1, ↓sem_get_2, ↓sem_get_3,
        ↓sem_get_4, ↓sem_trace_1, ↓sem_trace_2, ↓sem_trace_3, ↓sem_trace_4, ↓load_const,
        cc_iff, ea, and_imm, and_imm_left, ilog2_lit, or_eq_zero, or_mod32, or_lt_2p31,
        Nat.mod_mod, Nat.zero_or, Nat.or_zero, Nat.sub_zero, Nat.add_mod_right, lane_eq,
        Machine.io_eq_get, Nat.xor_self, Loc.x.injEq, Loc.g.injEq, Loc.m.injEq,
        Bool.toNat_eq_zero, Bool.toNat_eq_one, Nat.reducePow, Nat.reduceMul,
        Nat.reduceMod, Nat.reduceAdd, Nat.reduceSub, Nat.reduceDiv, Nat.reduceEqDiff,
        Nat.reduceLTLE, Nat.reduceLeDiff, Nat.reduceLT, Nat.reduceGT, Nat.reduceOr,
        Nat.reduceXor, reduceCtorEq, Bool.not_eq_true', Bool.not_eq_true,
        decide_eq_true_eq, decide_eq_false_iff_not, Bool.and_eq_true, Bool.or_eq_true,
        bne_iff_ne, beq_iff_eq, ne_eq, Bool.not_eq_false', Bool.not_eq_false, decide_not,
        not_not, Bool.decide_eq_true, Bool.false_eq_true, Bool.true_eq_false,
        not_false_eq_true, not_true_eq_false, and_true, true_and, and_false, false_and,
        or_true, true_or, or_false, false_or, not_true, not_false_iff, iff_self, true_iff,
        iff_true, false_iff, iff_false, ite_self, decide_eq_decide, decide_False,
        decide_True, Bool.not_true, Bool.not_false]
    all_goals omega

/-- C17: `fast_pow(2.0, 10.0)` is `1024.0` (bits `0x4090000000000000`) on every processor
whose `rcpps` returns, for the operand `1.0f` of lane 0, an estimate with relative error at
most `1.5 * 2^-12`, and, for the subnormal operand of lane 1 (the pattern `3`), `+Inf` as the
instruction does for subnormal operands. -/
theorem fast_pow_two_ten (cpu : Cpu) (s : Machine) (hx : s.arg0 = 0x4000000000000000)
    (hy : s.arg1 = 0x4024000000000000)
    (h0 : rcpWithin 0x3F800000 (cpu.rcp 0x3F800000 % 2 ^ 32) = true)
    (h1 : cpu.rcp 3 % 2 ^ 32 = 0x7F800000) :
    (fast_pow cpu s).result = 0x4090000000000000 := by
  have hb := rcpWithin_one _ (Nat.mod_lt (cpu.rcp 0x3F800000) (by decide : 0 < 2 ^ 32)) h0
  have hw := mulss_log2e_window _ hb.1 hb.2
  simp only [Nat.reducePow] at hw h1
  obtain ⟨t, ht, a1, a2, a3, a4, a5, a6, a7, a8, a9, a10, a11, a12, a13, a14⟩ :=
    fast_pow_two_ten_prefix cpu s hx hy hw.1
  rw [ht]
  exact fast_pow_L3_two_ten cpu t a1 a2 a3 a4 a5 a6 a7 a8 a9 a10 a11 a12
    (by rw [a13]; omega) (by rw [a14]; omega)

set_option maxRecDepth 100000 in
theorem fast_pow_two_ten_witness :
    ((Machine.init 0x4000000000000000 0x4024000000000000).arg0 = 0x4000000000000000 ∧
      (Machine.init 0x4000000000000000 0x4024000000000000).arg1 = 0x4024000000000000 ∧
      rcpWithin 0x3F800000 (Cpu.sample.rcp 0x3F800000 % 2 ^ 32) = true ∧
      Cpu.sample.rcp 3 % 2 ^ 32 = 0x7F800000) ∧
    (fast_pow Cpu.sample (Machine.init 0x4000000000000000 0x4024000000000000)).result =
      0x4090000000000000 :=
  ⟨by decide!, fast_pow_two_ten Cpu.sample (Machine.init 0x4000000000000000 0x4024000000000000)
    (by decide!) (by decide!) (by decide!) (by decide!)⟩

end MacroAssembler

namespace MacroAssembler
open XReg GReg Machine

/-! ### Round trips through `fast_log` and `fast_exp` -/

end MacroAssembler

namespace MacroAssembler
open XReg GReg Machine

theorem descends_bound (rank f : Label → Nat) (labels : List Label) (b : Label)
    (t t0 : List Label) (h : Descends rank b t t0)
    (hN : ∀ x, rank x ≤ rank b → x ∈ labels) :
    ∃ l, t = l ++ t0 ∧ l.Nodup ∧ l.length ≤ labels.length ∧
      (l.map f).sum ≤ (labels.map f).sum := by
  obtain ⟨l, e, ch⟩ := h
  have tr : IsTrans Label (fun x y => rank x < rank y) := ⟨fun _ _ _ => Nat.lt_trans⟩
  have pw : List.Pairwise (fun x y => rank x < rank y) (l ++ [b]) :=
    List.chain'_iff_pairwise.1 ch
  have nd : (l ++ [b]).Nodup :=
    pw.imp (fun {x y} hxy heq => by rw [heq] at hxy; exact Nat.lt_irrefl _ hxy)
  have sub : l ++ [b] ⊆ labels := by
    intro x hx
    apply hN
    rcases List.mem_append.1 hx with hx | hx
    · exact Nat.le_of_lt ((List.pairwise_append.1 pw).2.2 x hx b (List.mem_singleton_self b))
    · rw [List.mem_singleton.1 hx]
  have sp := List.subperm_of_subset nd sub
  refine ⟨l ++ [b], by rw [e]; simp, nd, sp.length_le, ?_⟩
  obtain ⟨l2, p, sl⟩ := sp
  rw [← (p.map f).sum_eq]
  exact (sl.map f).sum_le_sum (fun _ _ => Nat.zero_le _)

theorem exp_labels_mem (x : Label) (h : fast_exp.rank x ≤ fast_exp.rank .entry) : x ∈ fast_exp.labels := by
  cases x <;> first | decide | exact absurd h (by decide)

theorem exp_edges_descend : ∀ b ∈ fast_exp.labels, ∀ c ∈ fast_exp.succ b, fast_exp.rank c < fast_exp.rank b := by
  decide

theorem exp_bounded (cpu : Cpu) (s : Machine) :
    ∃ l, (fast_exp cpu s).trace = l ++ s.trace ∧ l.Nodup ∧ l.length ≤ 17 ∧
      (l.map fast_exp.blockSize).sum ≤ 162 :=
  descends_bound fast_exp.rank fast_exp.blockSize fast_exp.labels .entry _ _
    (fast_exp.exp_entry_descends fast_exp.rank exp_edges_all cpu s) exp_labels_mem

theorem log_labels_mem (x : Label) (h : fast_log.rank x ≤ fast_log.rank .entry) : x ∈ fast_log.labels := by
  cases x <;> first | decide | exact absurd h (by decide)

theorem log_edges_descend : ∀ b ∈ fast_log.labels, ∀ c ∈ fast_log.succ b, fast_log.rank c < fast_log.rank b := by
  decide

theorem log_bounded (cpu : Cpu) (s : Machine) :
    ∃ l, (fast_log cpu s).trace = l ++ s.trace ∧ l.Nodup ∧ l.length ≤ 13 ∧
      (l.map fast_log.blockSize).sum ≤ 134 :=
  descends_bound fast_log.rank fast_log.blockSize fast_log.labels .entry _ _
    (fast_log.log_entry_descends fast_log.rank log_edges_all cpu s) log_labels_mem

theorem pow_labels_mem (x : Label) (h : fast_pow.rank x ≤ fast_pow.rank .entry) : x ∈ fast_pow.labels := by
  cases x <;> first | decide | exact absurd h (by decide)

theorem pow_edges_descend : ∀ b ∈ fast_pow.labels, ∀ c ∈ fast_pow.succ b, fast_pow.rank c < fast_pow.rank b := by
  decide

theorem pow_bounded (cpu : Cpu) (s : Machine) :
    ∃ l, (fast_pow cpu s).trace = l ++ s.trace ∧ l.Nodup ∧ l.length ≤ 62 ∧
      (l.map fast_pow.blockSize).sum ≤ 921 :=
  descends_bound fast_pow.rank fast_pow.blockSize fast_pow.labels .entry _ _
    (fast_pow.pow_entry_descends fast_pow.rank pow_edges_all cpu s) pow_labels_mem

/-- C19: each of the three 64-bit kernels has an acyclic control-flow graph: with the
numbering `rank`, every jump and fall-through of a block goes to a label of smaller rank.  On
every input every label is entered at most once (the labels `l` entered by a call are
pairwise distinct), at most 17, 13 and 62 labels are entered, and the number of assembler
calls executed, which is at most the sum of the sizes of the blocks entered, is at most 162,
134 and 921 respectively, whatever the input.  The kernels are total functions of the machine
state. -/
theorem kernels_acyclic (cpu : Cpu) (s : Machine) :
    ((∀ b ∈ fast_exp.labels, ∀ c ∈ fast_exp.succ b, fast_exp.rank c < fast_exp.rank b) ∧
      ∃ l, (fast_exp cpu s).trace = l ++ s.trace ∧ l.Nodup ∧ l.length ≤ 17 ∧
        (l.map fast_exp.blockSize).sum ≤ 162) ∧
    ((∀ b ∈ fast_log.labels, ∀ c ∈ fast_log.succ b, fast_log.rank c < fast_log.rank b) ∧
      ∃ l, (fast_log cpu s).trace = l ++ s.trace ∧ l.Nodup ∧ l.length ≤ 13 ∧
        (l.map fast_log.blockSize).sum ≤ 134) ∧
    ((∀ b ∈ fast_pow.labels, ∀ c ∈ fast_pow.succ b, fast_pow.rank c < fast_pow.rank b) ∧
      ∃ l, (fast_pow cpu s).trace = l ++ s.trace ∧ l.Nodup ∧ l.length ≤ 62 ∧
        (l.map fast_pow.blockSize).sum ≤ 921) :=
  ⟨⟨exp_edges_descend, exp_bounded cpu s⟩, ⟨log_edges_descend, log_bounded cpu s⟩,
    ⟨pow_edges_descend, pow_bounded cpu s⟩⟩

end MacroAssembler

namespace MacroAssembler
open XReg GReg Machine

/-! ### The main path of `fast_log` -/

theorem fast_log_main_run (cpu : Cpu) (s : Machine)
    (h1 : 0x0010000000000000 ≤ s.arg0) (h2 : s.arg0 < 0x7FF0000000000000) :
    (fast_log cpu s).trace = [Label.B1_5, Label.L_2TAG_PACKET_1_0_2, Label.start, Label.entry]
      ++ s.trace ∧
    (fast_log cpu s).get (.g tmp2) = Tbl.L_tbl.addr := by
  simp only [Machine.io_eq_get, Nat.reducePow] at h1 h2
  rw [
      fast_log, fast_log.log_entry_eq, fast_log.log_start_eq, if_neg,
      fast_log.log_L_2TAG_PACKET_1_0_2_eq, fast_log.log_B1_5_eq]
  · set_option maxRecDepth 8000 in
    simp only [
        ↓reduceIte, ↓fast_log.log_B1_5_1_sem, ↓fast_log.log_L_2TAG_PACKET_1_0_2_1_sem,
        ↓fast_log.log_start_2_sem, ↓fast_log.log_start_1_sem, ↓fast_log.log_entry_1_sem,
        ↓Machine.get_setx, ↓Machine.get_setg, ↓Machine.get_setstk, ↓Machine.get_enter,
        ↓Machine.get_setFlags, ↓Machine.trace_set, ↓Machine.get_ite, ↓Machine.trace_ite,
        ↓Machine.obs_eq_get, ↓Machine.flags_get, ↓Machine.flags_trace, ↓sem_get_1,
        ↓sem_get_2, ↓sem_get_3, ↓sem_get_4, ↓sem_trace_1, ↓sem_trace_2, ↓sem_trace_3,
        ↓sem_trace_4, ↓load_const, cc_iff, ea, and_imm, and_imm_left, ilog2_lit,
        or_eq_zero, or_mod32, or_lt_2p31, Nat.mod_mod, Nat.zero_or, Nat.or_zero,
        Nat.sub_zero, Nat.add_mod_right, lane_eq, Machine.io_eq_get, Nat.xor_self,
        Loc.x.injEq, Loc.g.injEq, Loc.m.injEq, Bool.toNat_eq_zero, Bool.toNat_eq_one,
        Nat.reducePow, Nat.reduceMul, Nat.reduceMod, Nat.reduceAdd, Nat.reduceSub,
        Nat.reduceDiv, Nat.reduceEqDiff, Nat.reduceLTLE, Nat.reduceLeDiff, Nat.reduceLT,
        Nat.reduceGT, Nat.reduceOr, Nat.reduceXor, reduceCtorEq, Bool.not_eq_true',
        Bool.not_eq_true, decide_eq_true_eq, decide_eq_false_iff_not, Bool.and_eq_true,
        Bool.or_eq_true, bne_iff_ne, beq_iff_eq, ne_eq, Bool.not_eq_false',
        Bool.not_eq_false, decide_not, not_not, Bool.decide_eq_true, Bool.false_eq_true,
        Bool.true_eq_false, not_false_eq_true, not_true_eq_false, and_true, true_and,
        and_false, false_and, or_true, true_or, or_false, false_or, not_true,
        not_false_iff, iff_self, true_iff, iff_true, false_iff, iff_false, ite_self,
        decide_eq_decide, decide_False, decide_True, Bool.not_true, Bool.not_false]
    simp
  · set_option maxRecDepth 8000 in
    simp only [
        ↓reduceIte, ↓fast_log.log_start_1_sem, ↓fast_log.log_entry_1_sem,
        ↓Machine.get_setx, ↓Machine.get_setg, ↓Machine.get_setstk, ↓Machine.get_enter,
        ↓Machine.get_setFlags, ↓Machine.trace_set, ↓Machine.get_ite, ↓Machine.trace_ite,
        ↓Machine.obs_eq_get, ↓Machine.flags_get, ↓Machine.flags_trace, ↓sem_get_1,
        ↓sem_get_2, ↓sem_get_3, ↓sem_get_4, ↓sem_trace_1, ↓sem_trace_2, ↓sem_trace_3,
        ↓sem_trace_4, ↓load_const, cc_iff, ea, and_imm, and_imm_left, ilog2_lit,
        or_eq_zero, or_mod32, or_lt_2p31, Nat.mod_mod, Nat.zero_or, Nat.or_zero,
        Nat.sub_zero, Nat.add_mod_right, lane_eq, Machine.io_eq_get, Nat.xor_self,
        Loc.x.injEq, Loc.g.injEq, Loc.m.injEq, Bool.toNat_eq_zero, Bool.toNat_eq_one,
        Nat.reducePow, Nat.reduceMul, Nat.reduceMod, Nat.reduceAdd, Nat.reduceSub,
        Nat.reduceDiv, Nat.reduceEqDiff, Nat.reduceLTLE, Nat.reduceLeDiff, Nat.reduceLT,
        Nat.reduceGT, Nat.reduceOr, Nat.reduceXor, reduceCtorEq, Bool.not_eq_true',
        Bool.not_eq_true, decide_eq_true_eq, decide_eq_false_iff_not, Bool.and_eq_true,
        Bool.or_eq_true, bne_iff_ne, beq_iff_eq, ne_eq, Bool.not_eq_false',
        Bool.not_eq_false, decide_not, not_not, Bool.decide_eq_true, Bool.false_eq_true,
        Bool.true_eq_false, not_false_eq_true, not_true_eq_false, and_true, true_and,
        and_false, false_and, or_true, true_or, or_false, false_or, not_true,
        not_false_iff, iff_self, true_iff, iff_true, false_iff, iff_false, ite_self,
        decide_eq_decide, decide_False, decide_True, Bool.not_true, Bool.not_false]
    all_goals omega

set_option maxRecDepth 100000 in
/-- C20, counterexample: `x = 0x3FF0300000000000 = 1 + 3 * 2^-8` satisfies `|x - 1| < 2^-6`
(it lies strictly between `1 - 2^-6` and `1 + 2^-6`), yet the run of `fast_log` is the main
path through `start` (which executes `rcpps`) and `L_2TAG_PACKET_1_0_2` (which loads
`_L_tbl` at the offset held in `edx`); at exit `tmp2` holds the address of `_L_tbl` and `edx`
the offset 2000 of entry 125, and with another reciprocal estimate the offset and the result
are different. -/
theorem fast_log_near_one_counterexample :
    (0x3FEF800000000000 < 0x3FF0300000000000 ∧ 0x3FF0300000000000 < 0x3FF0400000000000) ∧
    (fast_log Cpu.sample (Machine.init 0x3FF0300000000000 0)).trace =
      [Label.B1_5, Label.L_2TAG_PACKET_1_0_2, Label.start, Label.entry] ∧
    (fast_log Cpu.sample (Machine.init 0x3FF0300000000000 0)).get (.g tmp2) = Tbl.L_tbl.addr ∧
    (fast_log Cpu.sample (Machine.init 0x3FF0300000000000 0)).get (.g edx) = 2000 ∧
    (fast_log Cpu.coarse (Machine.init 0x3FF0300000000000 0)).get (.g edx) = 0 ∧
    (fast_log Cpu.coarse (Machine.init 0x3FF0300000000000 0)).result ≠
      (fast_log Cpu.sample (Machine.init 0x3FF0300000000000 0)).result := by
  decide!

/-- C20, amended: `fast_log` has no separate path for arguments near `1`.  For every positive
normal argument `x` (in particular every `x` with `|x - 1| < 2^-6`) the run is `entry`,
`start`, `L_2TAG_PACKET_1_0_2`, `B1_5`: the reciprocal estimate is taken in `start` and the
table `_L_tbl`, whose address is in `tmp2` at exit, is read in `L_2TAG_PACKET_1_0_2`. -/
theorem fast_log_main_path (cpu : Cpu) (s : Machine)
    (h1 : 0 < f64Exp s.arg0) (h2 : f64Exp s.arg0 < 2047) (h3 : f64Sign s.arg0 = 0) :
    (fast_log cpu s).trace = [Label.B1_5, Label.L_2TAG_PACKET_1_0_2, Label.start, Label.entry]
      ++ s.trace ∧
    (fast_log cpu s).get (.g tmp2) = Tbl.L_tbl.addr := by
  have hlt := arg0_lt s
  simp only [f64Exp, f64Sign, Nat.reducePow] at h1 h2 h3
  exact fast_log_main_run cpu s (by omega) (by omega)

theorem fast_log_main_path_witness :
    (0 < f64Exp (Machine.init 0x3FF0300000000000 0).arg0 ∧
      f64Exp (Machine.init 0x3FF0300000000000 0).arg0 < 2047 ∧
      f64Sign (Machine.init 0x3FF0300000000000 0).arg0 = 0) ∧
    (fast_log Cpu.sample (Machine.init 0x3FF0300000000000 0)).trace =
      [Label.B1_5, Label.L_2TAG_PACKET_1_0_2, Label.start, Label.entry] ∧
    (fast_log Cpu.sample (Machine.init 0x3FF0300000000000 0)).get (.g tmp2) = Tbl.L_tbl.addr :=
  ⟨by decide, fast_log_main_path Cpu.sample (Machine.init 0x3FF0300000000000 0) (by decide)
    (by decide) (by decide)⟩

end MacroAssembler

namespace MacroAssembler
open XReg GReg Machine

/-! ### The split of the rounded integer in `fast_exp` -/

set_option maxRecDepth 100000 in
theorem fast_exp_split_counterexample :
    fast_exp.roundedM (fast_exp.start_1 Cpu.sample (fast_exp.entry_1 Cpu.sample
      (Machine.init 0x3FE6000000000000 0))) = 63 ∧
    (fast_exp.start_2 Cpu.sample (fast_exp.start_1 Cpu.sample (fast_exp.entry_1 Cpu.sample
      (Machine.init 0x3FE6000000000000 0)))).get (.g ecx) = 16 * 63 ∧
    (fast_exp.start_2 Cpu.sample (fast_exp.start_1 Cpu.sample (fast_exp.entry_1 Cpu.sample
      (Machine.init 0x3FE6000000000000 0)))).get (.g eax) = 0 ∧
    ¬ 63 ≤ 32 := by
  refine ⟨?_, ?_, ?_, by decide⟩
  · decide!
  · decide!
  · decide!

set_option maxRecDepth 100000 in
/-- The split performed by `start_2` on the rounded integer held by an arbitrary state. -/
theorem exp_start_2_split (cpu : Cpu) (s : Machine) :
    (fast_exp.start_2 cpu s).get (.g ecx) = 16 * (fast_exp.roundedM s % 64) ∧
    toInt32 (fast_exp.roundedM s) =
      64 * toInt32 ((fast_exp.start_2 cpu s).get (.g eax)) + (fast_exp.roundedM s % 64 : Nat) ∧
    fast_exp.roundedM s % 64 ≤ 63 ∧
    (fast_exp.start_2 cpu s).get (.g ecx) + 16 ≤ 4 * Tbl.Tbl_addr.data.length := by
  have hl : Tbl.Tbl_addr.data.length = 256 := by decide
  rw [hl]
  simp only [fast_exp.roundedM, toInt32]
  set_option maxRecDepth 8000 in
  simp only [
      ↓reduceIte, ↓fast_exp.exp_start_2_sem, ↓Machine.get_setx, ↓Machine.get_setg,
      ↓Machine.get_setstk, ↓Machine.get_enter, ↓Machine.get_setFlags, ↓Machine.trace_set,
      ↓Machine.get_ite, ↓Machine.trace_ite, ↓Machine.obs_eq_get, ↓Machine.flags_get,
      ↓Machine.flags_trace, ↓sem_get_1, ↓sem_get_2, ↓sem_get_3, ↓sem_get_4, ↓sem_trace_1,
      ↓sem_trace_2, ↓sem_trace_3, ↓sem_trace_4, ↓load_const, cc_iff, ea, and_imm,
      and_imm_left, ilog2_lit, or_eq_zero, or_mod32, or_lt_2p31, Nat.mod_mod, Nat.zero_or,
      Nat.or_zero, Nat.sub_zero, Nat.add_mod_right, lane_eq, Machine.io_eq_get,
      Nat.xor_self, Loc.x.injEq, Loc.g.injEq, Loc.m.injEq, Bool.toNat_eq_zero,
      Bool.toNat_eq_one, Nat.reducePow, Nat.reduceMul, Nat.reduceMod, Nat.reduceAdd,
      Nat.reduceSub, Nat.reduceDiv, Nat.reduceEqDiff, Nat.reduceLTLE, Nat.reduceLeDiff,
      Nat.reduceLT, Nat.reduceGT, Nat.reduceOr, Nat.reduceXor, reduceCtorEq,
      Bool.not_eq_true', Bool.not_eq_true, decide_eq_true_eq, decide_eq_false_iff_not,
      Bool.and_eq_true, Bool.or_eq_true, bne_iff_ne, beq_iff_eq, ne_eq, Bool.not_eq_false',
      Bool.not_eq_false, decide_not, not_not, Bool.decide_eq_true, Bool.false_eq_true,
      Bool.true_eq_false, not_false_eq_true, not_true_eq_false, and_true, true_and,
      and_false, false_and, or_true, true_or, or_false, false_or, not_true, not_false_iff,
      iff_self, true_iff, iff_true, false_iff, iff_false, ite_self, decide_eq_decide,
      decide_False, decide_True, Bool.not_true, Bool.not_false]
  generalize hM : (f64Add _ _ + 18446744073709551616 * f64Add _ _) % 4294967296 = M
  have hlt : M < 4294967296 := by
    rw [← hM]
    exact Nat.mod_lt _ (by decide)
  clear hM
  refine ⟨by omega, ?_, by omega, by omega⟩
  split_ifs <;> omega

/-- C21 (amended): for every `x` that `fast_exp` sends through its range reduction (top 16
bits of `|x|` in `[15504, 16527]`), with `m` the low 32 bits of `x * (64 / ln 2) + 1.5 * 2^52`
(the rounded integer): the kernel continues, at `L_2TAG_PACKET_1_0_2` or with the direct
reconstruction, from a state in which `ecx` holds the byte offset `16 * j` of the table index
`j = m mod 64` (inside the 1024 bytes of `_Tbl_addr`) and `eax` holds `n = m >> 6`
(arithmetic shift), with `m = 64 * n + j` as signed integers and `0 ≤ j ≤ 63`; `j` is not in
`[-32, 32]` in general. -/
theorem fast_exp_split (cpu : Cpu) (s : Machine)
    (h1 : 15504 ≤ s.arg0 / 2 ^ 48 % 32768) (h2 : s.arg0 / 2 ^ 48 % 32768 ≤ 16527) :
    ∃ t, (fast_exp cpu s = fast_exp.L_2TAG_PACKET_1_0_2 cpu t ∨
        fast_exp cpu s = fast_exp.B1_5 cpu (fast_exp.start_3 cpu t)) ∧
      fast_exp.roundedM (fast_exp.start_1 cpu (fast_exp.entry_1 cpu s)) =
        f64Add (f64Mul 0x40571547652b82fe s.arg0) 0x4338000000000000 % 2 ^ 32 ∧
      t.get (.g ecx) =
        16 * (f64Add (f64Mul 0x40571547652b82fe s.arg0) 0x4338000000000000 % 2 ^ 32 % 64) ∧
      toInt32 (f64Add (f64Mul 0x40571547652b82fe s.arg0) 0x4338000000000000 % 2 ^ 32) =
        64 * toInt32 (t.get (.g eax)) +
          (f64Add (f64Mul 0x40571547652b82fe s.arg0) 0x4338000000000000 % 2 ^ 32 % 64 : Nat) ∧
      f64Add (f64Mul 0x40571547652b82fe s.arg0) 0x4338000000000000 % 2 ^ 32 % 64 ≤ 63 ∧
      t.get (.g ecx) + 16 ≤ 4 * Tbl.Tbl_addr.data.length := by
  have hr := exp_main_run cpu s h1 h2
  have hm := exp_roundedM cpu s
  obtain ⟨a, b, c, d⟩ := exp_start_2_split cpu (fast_exp.start_1 cpu (fast_exp.entry_1 cpu s))
  rw [hm] at a b c
  refine ⟨fast_exp.start_2 cpu (fast_exp.start_1 cpu (fast_exp.entry_1 cpu s)), ?_, hm, a, b,
    c, d⟩
  rw [hr]
  split_ifs
  · exact Or.inl rfl
  · exact Or.inr rfl

set_option maxRecDepth 100000 in
theorem fast_exp_split_witness :
    (15504 ≤ (Machine.init 0x3FE6000000000000 0).arg0 / 2 ^ 48 % 32768 ∧
      (Machine.init 0x3FE6000000000000 0).arg0 / 2 ^ 48 % 32768 ≤ 16527) ∧
    ∃ t, (fast_exp Cpu.sample (Machine.init 0x3FE6000000000000 0) =
          fast_exp.L_2TAG_PACKET_1_0_2 Cpu.sample t ∨
        fast_exp Cpu.sample (Machine.init 0x3FE6000000000000 0) =
          fast_exp.B1_5 Cpu.sample (fast_exp.start_3 Cpu.sample t)) ∧
      fast_exp.roundedM (fast_exp.start_1 Cpu.sample (fast_exp.entry_1 Cpu.sample
          (Machine.init 0x3FE6000000000000 0))) =
        f64Add (f64Mul 0x40571547652b82fe (Machine.init 0x3FE6000000000000 0).arg0)
          0x4338000000000000 % 2 ^ 32 ∧
      t.get (.g ecx) =
        16 * (f64Add (f64Mul 0x40571547652b82fe (Machine.init 0x3FE6000000000000 0).arg0)
          0x4338000000000000 % 2 ^ 32 % 64) ∧
      toInt32 (f64Add (f64Mul 0x40571547652b82fe (Machine.init 0x3FE6000000000000 0).arg0)
          0x4338000000000000 % 2 ^ 32) =
        64 * toInt32 (t.get (.g eax)) +
          (f64Add (f64Mul 0x40571547652b82fe (Machine.init 0x3FE6000000000000 0).arg0)
            0x4338000000000000 % 2 ^ 32 % 64 : Nat) ∧
      f64Add (f64Mul 0x40571547652b82fe (Machine.init 0x3FE6000000000000 0).arg0)
        0x4338000000000000 % 2 ^ 32 % 64 ≤ 63 ∧
      t.get (.g ecx) + 16 ≤ 4 * Tbl.Tbl_addr.data.length :=
  ⟨by decide!, fast_exp_split Cpu.sample (Machine.init 0x3FE6000000000000 0)
    (by decide!) (by decide!)⟩

end MacroAssembler

namespace MacroAssembler
open XReg GReg Machine

/-! ### Composition of the exponent in `fast_exp` -/

set_option maxRecDepth 100000 in
theorem exp_tbl_hi : ∀ j, j < 64 →
    load128 (81604378624 + 16 * j) / 18446744073709551616 % 18446744073709551616 = expTblHi j ∧
    expTblHi j < 4503599627370496 := by decide!

theorem and_mmask (x : Nat) :
    (x &&& 79228161333672716880427614144) % 18446744073709551616 =
      x % 4294967296 / 64 * 64 := by
  have h := and_mod_pow x 79228161333672716880427614144 64
  have e : (79228161333672716880427614144 : Nat) % 2 ^ 64 = (2 ^ 26 - 1) * 2 ^ 6 := by decide
  rw [e, and_mask] at h
  simp only [Nat.reducePow] at h
  omega

theorem or_disjoint52 (a w : Nat) (ha : a < 4503599627370496) (k : Nat)
    (hw : w = 4503599627370496 * k) : a ||| w = a + w := by
  rw [hw, Nat.or_comm, Nat.add_comm]
  exact (Nat.mul_add_lt_is_or (i := 52) ha k).symm

/-- The words composed by `start_2` from the rounded integer held by an arbitrary state. -/
theorem exp_start_2_compose (cpu : Cpu) (s : Machine) :
    ((¬ cc_above (fast_exp.start_2 cpu s) = true) ↔
      -894 ≤ toInt32 ((fast_exp.start_2 cpu s).get (.g eax)) ∧
      toInt32 ((fast_exp.start_2 cpu s).get (.g eax)) ≤ 1022) ∧
    ((¬ cc_above (fast_exp.start_2 cpu s) = true) →
      129 ≤ toInt32 ((fast_exp.start_2 cpu s).get (.g eax)) + 1023 ∧
      toInt32 ((fast_exp.start_2 cpu s).get (.g eax)) + 1023 ≤ 2045 ∧
      ((lo64 ((fast_exp.start_2 cpu s).xr xmm7) : Nat) : Int) =
        (toInt32 ((fast_exp.start_2 cpu s).get (.g eax)) + 1023) * 4503599627370496 ∧
      lo64 ((fast_exp.start_2 cpu s).xr xmm2) =
        expTblHi (fast_exp.roundedM s % 64) ||| lo64 ((fast_exp.start_2 cpu s).xr xmm7) ∧
      lo64 ((fast_exp.start_2 cpu s).xr xmm2) =
        expTblHi (fast_exp.roundedM s % 64) + lo64 ((fast_exp.start_2 cpu s).xr xmm7) ∧
      f64Sign (lo64 ((fast_exp.start_2 cpu s).xr xmm2)) = 0 ∧
      ((f64Exp (lo64 ((fast_exp.start_2 cpu s).xr xmm2)) : Nat) : Int) =
        toInt32 ((fast_exp.start_2 cpu s).get (.g eax)) + 1023 ∧
      f64Man (lo64 ((fast_exp.start_2 cpu s).xr xmm2)) = expTblHi (fast_exp.roundedM s % 64)) ∧
    (∀ j, j < 64 → expTblHi j < 2 ^ 52) := by
  have haddr : Tbl.Tbl_addr.addr = 81604378624 := by decide
  refine ⟨?_, ?_, fun j hj => (exp_tbl_hi j hj).2⟩
  · simp only [toInt32]
    set_option maxRecDepth 8000 in
    simp only [
        ↓reduceIte, ↓fast_exp.exp_start_2_sem, ↓Machine.get_setx, ↓Machine.get_setg,
        ↓Machine.get_setstk, ↓Machine.get_enter, ↓Machine.get_setFlags,
        ↓Machine.trace_set, ↓Machine.get_ite, ↓Machine.trace_ite, ↓Machine.obs_eq_get,
        ↓Machine.flags_get, ↓Machine.flags_trace, ↓sem_get_1, ↓sem_get_2, ↓sem_get_3,
        ↓sem_get_4, ↓sem_trace_1, ↓sem_trace_2, ↓sem_trace_3, ↓sem_trace_4, ↓load_const,
        cc_iff, ea, and_imm, and_imm_left, ilog2_lit, or_eq_zero, or_mod32, or_lt_2p31,
        Nat.mod_mod, Nat.zero_or, Nat.or_zero, Nat.sub_zero, Nat.add_mod_right, lane_eq,
        Machine.io_eq_get, Nat.xor_self, Loc.x.injEq, Loc.g.injEq, Loc.m.injEq,
        Bool.toNat_eq_zero, Bool.toNat_eq_one, Nat.reducePow, Nat.reduceMul,
        Nat.reduceMod, Nat.reduceAdd, Nat.reduceSub, Nat.reduceDiv, Nat.reduceEqDiff,
        Nat.reduceLTLE, Nat.reduceLeDiff, Nat.reduceLT, Nat.reduceGT, Nat.reduceOr,
        Nat.reduceXor, reduceCtorEq, Bool.not_eq_true', Bool.not_eq_true,
        decide_eq_true_eq, decide_eq_false_iff_not, Bool.and_eq_true, Bool.or_eq_true,
        bne_iff_ne, beq_iff_eq, ne_eq, Bool.not_eq_false', Bool.not_eq_false, decide_not,
        not_not, Bool.decide_eq_true, Bool.false_eq_true, Bool.true_eq_false,
        not_false_eq_true, not_true_eq_false, and_true, true_and, and_false, false_and,
        or_true, true_or, or_false, false_or, not_true, not_false_iff, iff_self, true_iff,
        iff_true, false_iff, iff_false, ite_self, decide_eq_decide, decide_False,
        decide_True, Bool.not_true, Bool.not_false]
    generalize hM : (f64Add _ _ + 18446744073709551616 * f64Add _ _) % 4294967296 = m
    have hlt : m < 4294967296 := by
      rw [← hM]
      exact Nat.mod_lt _ (by decide)
    clear hM
    split_ifs <;> omega
  · simp only [fast_exp.roundedM, toInt32, f64Sign, f64Exp, f64Man]
    set_option maxRecDepth 8000 in
    simp only [
        ↓reduceIte, ↓fast_exp.exp_start_2_sem, haddr, and_mmask, or_mod64,
        ↓Machine.get_setx, ↓Machine.get_setg, ↓Machine.get_setstk, ↓Machine.get_enter,
        ↓Machine.get_setFlags, ↓Machine.trace_set, ↓Machine.get_ite, ↓Machine.trace_ite,
        ↓Machine.obs_eq_get, ↓Machine.flags_get, ↓Machine.flags_trace, ↓sem_get_1,
        ↓sem_get_2, ↓sem_get_3, ↓sem_get_4, ↓sem_trace_1, ↓sem_trace_2, ↓sem_trace_3,
        ↓sem_trace_4, ↓load_const, cc_iff, ea, and_imm, and_imm_left, ilog2_lit,
        or_eq_zero, or_mod32, or_lt_2p31, Nat.mod_mod, Nat.zero_or, Nat.or_zero,
        Nat.sub_zero, Nat.add_mod_right, lane_eq, Machine.io_eq_get, Nat.xor_self,
        Loc.x.injEq, Loc.g.injEq, Loc.m.injEq, Bool.toNat_eq_zero, Bool.toNat_eq_one,
        Nat.reducePow, Nat.reduceMul, Nat.reduceMod, Nat.reduceAdd, Nat.reduceSub,
        Nat.reduceDiv, Nat.reduceEqDiff, Nat.reduceLTLE, Nat.reduceLeDiff, Nat.reduceLT,
        Nat.reduceGT, Nat.reduceOr, Nat.reduceXor, reduceCtorEq, Bool.not_eq_true',
        Bool.not_eq_true, decide_eq_true_eq, decide_eq_false_iff_not, Bool.and_eq_true,
        Bool.or_eq_true, bne_iff_ne, beq_iff_eq, ne_eq, Bool.not_eq_false',
        Bool.not_eq_false, decide_not, not_not, Bool.decide_eq_true, Bool.false_eq_true,
        Bool.true_eq_false, not_false_eq_true, not_true_eq_false, and_true, true_and,
        and_false, false_and, or_true, true_or, or_false, false_or, not_true,
        not_false_iff, iff_self, true_iff, iff_true, false_iff, iff_false, ite_self,
        decide_eq_decide, decide_False, decide_True, Bool.not_true, Bool.not_false]
    generalize hM : (f64Add _ _ + 18446744073709551616 * f64Add _ _) = M
    clear hM
    generalize hm : M % 4294967296 = m
    have hlt : m < 4294967296 := by
      rw [← hm]
      exact Nat.mod_lt _ (by decide)
    have ha : (m % 64 % 4294967296 * 16 % 4294967296 + 81604378624 + 0) %
        18446744073709551616 = 81604378624 + 16 * (m % 64) := by omega
    obtain ⟨h1, h2⟩ := exp_tbl_hi (m % 64) (Nat.mod_lt _ (by decide))
    rw [ha, h1]
    generalize expTblHi (m % 64) = T at h2 ⊢
    generalize (M &&& 79228161333672716880427614144) / 18446744073709551616 %
      18446744073709551616 = U
    have hT : (T + 18446744073709551616 * T) % 18446744073709551616 = T := by omega
    rw [hT]
    generalize hW : (((m / 64 * 64 + 65472) % 18446744073709551616 +
      18446744073709551616 * ((U + 65472) % 18446744073709551616)) % 18446744073709551616 *
      70368744177664 % 18446744073709551616 + 18446744073709551616 *
      (((m / 64 * 64 + 65472) % 18446744073709551616 +
      18446744073709551616 * ((U + 65472) % 18446744073709551616)) / 18446744073709551616 %
      18446744073709551616 * 70368744177664 % 18446744073709551616)) %
      18446744073709551616 = W
    have hW2 : W = (m / 64 * 64 + 65472) * 70368744177664 % 18446744073709551616 := by omega
    clear hW
    intro hd
    have hor : T ||| W = T + W :=
      or_disjoint52 T W h2 (W / 4503599627370496) (by omega)
    rw [hor]
    refine ⟨?_, ?_, ?_, rfl, rfl, ?_, ?_, ?_⟩ <;> split_ifs at hd ⊢ <;> omega

/-- The direct reconstruction `start_3` followed by the exit multiplies the polynomial value by
the composed word and adds the word. -/
theorem exp_direct_result (cpu : Cpu) (s : Machine) :
    (fast_exp.B1_5 cpu (fast_exp.start_3 cpu s)).result =
      f64Add (f64Mul (lo64 (s.xr xmm0)) (lo64 (s.xr xmm2))) (lo64 (s.xr xmm2)) := by
  rw [fast_exp.exp_B1_5_eq]
  simp only [Machine.io_eq_get, lo64, Nat.reducePow]
  set_option maxRecDepth 8000 in
  simp only [
      ↓reduceIte, ↓fast_exp.exp_B1_5_1_sem, ↓fast_exp.exp_start_3_sem, ↓Machine.get_setx,
      ↓Machine.get_setg, ↓Machine.get_setstk, ↓Machine.get_enter, ↓Machine.get_setFlags,
      ↓Machine.trace_set, ↓Machine.get_ite, ↓Machine.trace_ite, ↓Machine.obs_eq_get,
      ↓Machine.flags_get, ↓Machine.flags_trace, ↓sem_get_1, ↓sem_get_2, ↓sem_get_3,
      ↓sem_get_4, ↓sem_trace_1, ↓sem_trace_2, ↓sem_trace_3, ↓sem_trace_4, ↓load_const,
      cc_iff, ea, and_imm, and_imm_left, ilog2_lit, or_eq_zero, or_mod32, or_lt_2p31,
      Nat.mod_mod, Nat.zero_or, Nat.or_zero, Nat.sub_zero, Nat.add_mod_right, lane_eq,
      Machine.io_eq_get, Nat.xor_self, Loc.x.injEq, Loc.g.injEq, Loc.m.injEq,
      Bool.toNat_eq_zero, Bool.toNat_eq_one, Nat.reducePow, Nat.reduceMul, Nat.reduceMod,
      Nat.reduceAdd, Nat.reduceSub, Nat.reduceDiv, Nat.reduceEqDiff, Nat.reduceLTLE,
      Nat.reduceLeDiff, Nat.reduceLT, Nat.reduceGT, Nat.reduceOr, Nat.reduceXor,
      reduceCtorEq, Bool.not_eq_true', Bool.not_eq_true, decide_eq_true_eq,
      decide_eq_false_iff_not, Bool.and_eq_true, Bool.or_eq_true, bne_iff_ne, beq_iff_eq,
      ne_eq, Bool.not_eq_false', Bool.not_eq_false, decide_not, not_not,
      Bool.decide_eq_true, Bool.false_eq_true, Bool.true_eq_false, not_false_eq_true,
      not_true_eq_false, and_true, true_and, and_false, false_and, or_true, true_or,
      or_false, false_or, not_true, not_false_iff, iff_self, true_iff, iff_true, false_iff,
      iff_false, ite_self, decide_eq_decide, decide_False, decide_True, Bool.not_true,
      Bool.not_false]
  have h1 := f64Mul_lt (s.get (.x xmm0) % 18446744073709551616)
    (s.get (.x xmm2) % 18446744073709551616) (Nat.mod_lt _ (by decide)) (Nat.mod_lt _ (by decide))
  have h3 : s.get (.x xmm2) % 18446744073709551616 < 18446744073709551616 :=
    Nat.mod_lt _ (by decide)
  generalize s.get (.x xmm2) % 18446744073709551616 = w at h1 h3 ⊢
  generalize f64Mul (s.get (.x xmm0) % 18446744073709551616) w = p at h1 ⊢
  generalize s.get (.x xmm0) / 18446744073709551616 % 18446744073709551616 = q
  have e : (p + 18446744073709551616 * q) % 18446744073709551616 = p := by omega
  rw [e]
  have h2 := f64Add_lt p w h1 h3
  generalize f64Add p w = a at h2 ⊢
  omega

/-- C22: for every `x` that `fast_exp` sends through its range reduction (top 16 bits of `|x|`
in `[15504, 16527]`), with `m` the rounded integer, `j = m mod 64` and `n = m >> 6` (left in
`eax`, `m = 64 * n + j`): the kernel takes the direct reconstruction (it does not enter
`L_2TAG_PACKET_1_0_2`) exactly when `-894 ≤ n ≤ 1022`; then the low quadword of `xmm7`,
`((m & ~63) + 0xFFC0) << 46`, is `(n + 1023) * 2^52` with `129 ≤ n + 1023 ≤ 2045` (zero sign
and mantissa bits), the low quadword `W` of `xmm2`, the bitwise OR of the `T_hi` word of entry
`j` with it, is their sum, a double with sign 0, exponent field `n + 1023` and the mantissa of
`T_hi[j]`, and the result of `fast_exp` is `p * W + W` for the polynomial value `p` in `xmm0`.
Every `T_hi` word of `_Tbl_addr` is below `2^52` (top twelve bits zero). -/
theorem fast_exp_exponent_compose (cpu : Cpu) (s : Machine)
    (h1 : 15504 ≤ s.arg0 / 2 ^ 48 % 32768) (h2 : s.arg0 / 2 ^ 48 % 32768 ≤ 16527) :
    (∃ t l, (fast_exp cpu s).trace = l ++ s.trace ∧
      (fast_exp cpu s = fast_exp.L_2TAG_PACKET_1_0_2 cpu t ∨
        fast_exp cpu s = fast_exp.B1_5 cpu (fast_exp.start_3 cpu t)) ∧
      toInt32 (f64Add (f64Mul 0x40571547652b82fe s.arg0) 0x4338000000000000 % 2 ^ 32) =
        64 * toInt32 (t.get (.g eax)) +
          (f64Add (f64Mul 0x40571547652b82fe s.arg0) 0x4338000000000000 % 2 ^ 32 % 64 : Nat) ∧
      (Label.L_2TAG_PACKET_1_0_2 ∉ l ↔
        -894 ≤ toInt32 (t.get (.g eax)) ∧ toInt32 (t.get (.g eax)) ≤ 1022) ∧
      (-894 ≤ toInt32 (t.get (.g eax)) ∧ toInt32 (t.get (.g eax)) ≤ 1022 →
        129 ≤ toInt32 (t.get (.g eax)) + 1023 ∧
        toInt32 (t.get (.g eax)) + 1023 ≤ 2045 ∧
        ((lo64 (t.xr xmm7) : Nat) : Int) =
          (toInt32 (t.get (.g eax)) + 1023) * 4503599627370496 ∧
        lo64 (t.xr xmm2) =
          expTblHi (f64Add (f64Mul 0x40571547652b82fe s.arg0) 0x4338000000000000 % 2 ^ 32 % 64)
            ||| lo64 (t.xr xmm7) ∧
        lo64 (t.xr xmm2) =
          expTblHi (f64Add (f64Mul 0x40571547652b82fe s.arg0) 0x4338000000000000 % 2 ^ 32 % 64)
            + lo64 (t.xr xmm7) ∧
        f64Sign (lo64 (t.xr xmm2)) = 0 ∧
        ((f64Exp (lo64 (t.xr xmm2)) : Nat) : Int) = toInt32 (t.get (.g eax)) + 1023 ∧
        f64Man (lo64 (t.xr xmm2)) =
          expTblHi (f64Add (f64Mul 0x40571547652b82fe s.arg0) 0x4338000000000000 % 2 ^ 32 % 64)
        ∧
        (fast_exp cpu s).result =
          f64Add (f64Mul (lo64 (t.xr xmm0)) (lo64 (t.xr xmm2))) (lo64 (t.xr xmm2)))) ∧
    (∀ j, j < 64 → expTblHi j < 2 ^ 52) := by
  have hr := exp_main_run cpu s h1 h2
  have hm := exp_roundedM cpu s
  obtain ⟨ha, hb, hc⟩ := exp_start_2_compose cpu (fast_exp.start_1 cpu (fast_exp.entry_1 cpu s))
  obtain ⟨-, hs, -, -⟩ := exp_start_2_split cpu (fast_exp.start_1 cpu (fast_exp.entry_1 cpu s))
  rw [hm] at hb hs
  refine ⟨?_, hc⟩
  have ht : (fast_exp.start_2 cpu (fast_exp.start_1 cpu (fast_exp.entry_1 cpu s))).trace =
      Label.start :: Label.entry :: s.trace := by
    rw [fast_exp.exp_start_2_trace, fast_exp.exp_start_1_trace, fast_exp.exp_entry_1_trace]
  by_cases h : cc_above (fast_exp.start_2 cpu (fast_exp.start_1 cpu
      (fast_exp.entry_1 cpu s))) = true
  · rw [if_pos h] at hr
    obtain ⟨l, e, hl⟩ := descends_lt _ _ _ _
      (fast_exp.exp_L_2TAG_PACKET_1_0_2_descends fast_exp.rank exp_edges_all cpu
        (fast_exp.start_2 cpu (fast_exp.start_1 cpu (fast_exp.entry_1 cpu s))))
    have hn := (not_congr ha).1 (not_not.2 h)
    refine ⟨_, l ++ [Label.L_2TAG_PACKET_1_0_2, Label.start, Label.entry], ?_, Or.inl hr, hs,
      ?_, fun hd => absurd hd hn⟩
    · rw [hr, e, ht]
      simp
    · simp [hn]
  · rw [if_neg h] at hr
    have hd := ha.1 h
    refine ⟨_, [Label.B1_5, Label.start, Label.entry], ?_, Or.inr hr, hs, ?_, fun _ => ?_⟩
    · rw [hr, fast_exp.exp_B1_5_eq, fast_exp.exp_B1_5_1_trace, fast_exp.exp_start_3_trace, ht]
      rfl
    · simp [hd]
    · obtain ⟨c1, c2, c3, c4, c5, c6, c7, c8⟩ := hb h
      refine ⟨c1, c2, c3, c4, c5, c6, c7, c8, ?_⟩
      rw [hr]
      exact exp_direct_result cpu _

set_option maxRecDepth 100000 in
theorem fast_exp_exponent_compose_witness :
    (15504 ≤ (Machine.init 0x3FE6000000000000 0).arg0 / 2 ^ 48 % 32768 ∧
      (Machine.init 0x3FE6000000000000 0).arg0 / 2 ^ 48 % 32768 ≤ 16527) ∧
    (fast_exp Cpu.sample (Machine.init 0x3FE6000000000000 0)).trace =
      [Label.B1_5, Label.start, Label.entry] ++ (Machine.init 0x3FE6000000000000 0).trace ∧
    (∀ j, j < 64 → expTblHi j < 2 ^ 52) :=
  ⟨by decide!, by decide!,
    (fast_exp_exponent_compose Cpu.sample (Machine.init 0x3FE6000000000000 0)
      (by decide!) (by decide!)).2⟩

end MacroAssembler

namespace MacroAssembler
open XReg GReg Machine

/-! ### The pairs of `_L_tbl` -/

set_option maxRecDepth 100000 in
theorem L_tbl_counterexample :
    logTblHi 0 = 0x3FE62E42FEFA3800 ∧ logTblLo 0 = 0x3D2EF35793C76730 ∧
    logTblHi 0 ≠ 0 ∧ dd_invariant (logTblHi 0) (logTblLo 0) = false ∧
    990 * 2 ^ f64E (logTblHi 0) < 2 * f64Mag (logTblLo 0) := by decide!

set_option maxRecDepth 100000 in
/-- C23 (amended): the table `_L_tbl` has 129 pairs.  Each of the 128 pairs with `hi ≠ 0` has
`hi` a positive multiple of `2^-43` (its low ten mantissa bits are zero) and `|lo| < 2^-44`,
half of that spacing; none of them satisfies `|lo| ≤ ulp(hi)/2`.  The last pair is
`(+0, -0)`. -/
theorem L_tbl_pairs :
    (∀ j, j < 128 → logTblHi j ≠ 0 ∧ f64Sign (logTblHi j) = 0 ∧ logTblHi j % 2 ^ 10 = 0 ∧
      f64Mag (logTblHi j) % 2 ^ 1032 = 0 ∧ f64Mag (logTblLo j) < 2 ^ 1031 ∧
      dd_invariant (logTblHi j) (logTblLo j) = false) ∧
    logTblHi 128 = 0 ∧ logTblLo 128 = 0x8000000000000000 := by decide!

end MacroAssembler

namespace MacroAssembler
open XReg GReg Machine

/-! ### The entries of `_Tbl_addr` -/

set_option maxRecDepth 100000 in
/-- C24: for every `j < 64`, entry `j` of `_Tbl_addr` represents `2^(j/64)` as
`T_hi * (1 + T_lo)` with relative error below `2^-70` in the sense
`(1 - 2^-70)^64 * 2^j ≤ (T_hi * (1 + T_lo))^64 ≤ (1 + 2^-70)^64 * 2^j`, in exact arithmetic
(`T_hi * (1 + T_lo) = expTblNum j / 2^1127`; both sides are multiplied by `2^(1197 * 64)`);
the mantissa word of `T_hi` is below `2^52`, and entry 0 is exactly 1. -/
theorem Tbl_addr_entries :
    (∀ j, j < 64 → expTblHi j < 2 ^ 52 ∧
      ((2 ^ 70 - 1) * 2 ^ 1127) ^ 64 * 2 ^ j ≤ (expTblNum j * 2 ^ 70) ^ 64 ∧
      (expTblNum j * 2 ^ 70) ^ 64 ≤ ((2 ^ 70 + 1) * 2 ^ 1127) ^ 64 * 2 ^ j) ∧
    expTblLo 0 = 0 ∧ expTblHi 0 = 0 ∧ expTblNum 0 = 2 ^ 1127 := by decide!

end MacroAssembler

namespace MacroAssembler
open XReg GReg Machine

/-! ### The annotated loads of `_coeff_pow` -/

theorem coeff_pow_annotation_counterexample :
    (2937, 64, [0x486ececc, 0x3fc4635e, 0x161bb241, 0xbf5dabe1]) ∈ coeffPowAnnotated ∧
    coeffPowWords 64 = [0x9f95985a, 0xbfb528db, 0xf8b5787d, 0x3ef2531e] ∧
    coeffPowWords 64 ≠ [0x486ececc, 0x3fc4635e, 0x161bb241, 0xbf5dabe1] := by decide

/-- C25 (amended): of the eight annotated loads of `_coeff_pow` in the 64-bit `fast_pow`, the
four of the main path (lines 2136, 2139, 2147, 2152) and the first of the near-one path
(line 2931) read exactly the words of their comment; the other three loads of the near-one
path do not: the load at offset 64 (line 2937) reads the words its neighbour's comment lists,
the load at offset 80 (line 2946) reads `0x486ececb, 0x3fc4635e, 0x412055cc, 0xbdd61bb2`, and
the load at offset 32 (line 2950) reads the words annotated at line 2147. -/
theorem coeff_pow_annotations :
    (∀ a ∈ coeffPowAnnotated, a.1 ∈ [2136, 2139, 2147, 2152, 2931] →
      coeffPowWords a.2.1 = a.2.2) ∧
    (∀ a ∈ coeffPowAnnotated, a.1 ∈ [2937, 2946, 2950] → coeffPowWords a.2.1 ≠ a.2.2) ∧
    coeffPowWords 64 = [0x9f95985a, 0xbfb528db, 0xf8b5787d, 0x3ef2531e] ∧
    coeffPowWords 80 = [0x486ececb, 0x3fc4635e, 0x412055cc, 0xbdd61bb2] ∧
    coeffPowWords 32 = [0x518775e3, 0x3f9004f2, 0xac8349bb, 0x3fa76c9b] ∧
    (∀ s : Machine, (movdqu_xe xmm2 Tbl.coeff_pow 64 s).get (.x xmm2) =
      load128 (Tbl.coeff_pow.addr + 64)) ∧
    load128 (Tbl.coeff_pow.addr + 64) = 0x3ef2531ef8b5787dbfb528db9f95985a := by
  refine ⟨by decide, by decide, by decide, by decide, by decide, ?_, by decide⟩
  intro s
  set_option maxRecDepth 8000 in
  simp only [
      ↓reduceIte, ↓Machine.get_setx, ↓Machine.get_setg, ↓Machine.get_setstk,
      ↓Machine.get_enter, ↓Machine.get_setFlags, ↓Machine.trace_set, ↓Machine.get_ite,
      ↓Machine.trace_ite, ↓Machine.obs_eq_get, ↓Machine.flags_get, ↓Machine.flags_trace,
      ↓sem_get_1, ↓sem_get_2, ↓sem_get_3, ↓sem_get_4, ↓sem_trace_1, ↓sem_trace_2,
      ↓sem_trace_3, ↓sem_trace_4, ↓load_const, cc_iff, ea, and_imm, and_imm_left, ilog2_lit,
      or_eq_zero, or_mod32, or_lt_2p31, Nat.mod_mod, Nat.zero_or, Nat.or_zero, Nat.sub_zero,
      Nat.add_mod_right, lane_eq, Machine.io_eq_get, Nat.xor_self, Loc.x.injEq, Loc.g.injEq,
      Loc.m.injEq, Bool.toNat_eq_zero, Bool.toNat_eq_one, Nat.reducePow, Nat.reduceMul,
      Nat.reduceMod, Nat.reduceAdd, Nat.reduceSub, Nat.reduceDiv, Nat.reduceEqDiff,
      Nat.reduceLTLE, Nat.reduceLeDiff, Nat.reduceLT, Nat.reduceGT, Nat.reduceOr,
      Nat.reduceXor, reduceCtorEq, Bool.not_eq_true', Bool.not_eq_true, decide_eq_true_eq,
      decide_eq_false_iff_not, Bool.and_eq_true, Bool.or_eq_true, bne_iff_ne, beq_iff_eq,
      ne_eq, Bool.not_eq_false', Bool.not_eq_false, decide_not, not_not,
      Bool.decide_eq_true, Bool.false_eq_true, Bool.true_eq_false, not_false_eq_true,
      not_true_eq_false, and_true, true_and, and_false, false_and, or_true, true_or,
      or_false, false_or, not_true, not_false_iff, iff_self, true_iff, iff_true, false_iff,
      iff_false, ite_self, decide_eq_decide, decide_False, decide_True, Bool.not_true,
      Bool.not_false]

end MacroAssembler

namespace MacroAssembler
open XReg GReg Machine

/-! ### When `fast_pow` takes its main path -/

set_option maxRecDepth 100000 in
/-- C26, counterexample: for `x = 3.0` and `y = 128.0` one has `2 ≤ x < 4`, so
`floor(log2(log2 x)) = 0`, and `floor(log2 y) = 7`; the sum has magnitude `7 < 8`, yet the
branch to `L_2TAG_PACKET_5_0_2` is taken. -/
theorem fast_pow_main_path_counterexample :
    f64Sign 0x4008000000000000 = 0 ∧ f64Exp 0x4008000000000000 = 1023 + 1 ∧
    f64Sign 0x4060000000000000 = 0 ∧ f64Exp 0x4060000000000000 = 1023 + 7 ∧
    (fast_pow Cpu.sample (Machine.init 0x4008000000000000 0x4060000000000000)).trace =
      [Label.B1_5, Label.L_2TAG_PACKET_5_0_2, Label.L_2TAG_PACKET_4_0_2,
        Label.L_2TAG_PACKET_3_0_2, Label.L_2TAG_PACKET_1_0_2, Label.B1_2, Label.start,
        Label.entry] := by decide!

theorem ilog2_one_two : ilog2 1 = 0 ∧ ilog2 2 = 1 := by decide!

/-- C26 (amended): for every positive finite `x` (subnormal numbers and the numbers near one
included) and every `y`, with `k` the unbiased binary exponent of `x`, `Ey` the exponent field
of `y` and `s = floor(log2(|k| + 1)) + (Ey - 1023)`: `fast_pow` takes its main path, that is
enters `L_2TAG_PACKET_4_0_2` and does not enter `L_2TAG_PACKET_5_0_2` (the branch after
`cmpl(eax, 624)` is not taken), if and only if `-31 ≤ s ≤ 7`, in particular whenever
`|s| < 8`; it then finishes with the second part of `L_2TAG_PACKET_4_0_2`.  The quantity is
`floor(log2(|k| + 1))`, not `floor(log2(|log2 x|))`. -/
theorem fast_pow_main_path (cpu : Cpu) (s : Machine)
    (h1 : 0 < s.arg0) (h2 : s.arg0 < 0x7FF0000000000000) :
    ∃ l, (fast_pow cpu s).trace = l ++ s.trace ∧
      ((Label.L_2TAG_PACKET_4_0_2 ∈ l ∧ Label.L_2TAG_PACKET_5_0_2 ∉ l) ↔
        (-31 ≤ (ilog2 ((f64Ilogb s.arg0).natAbs + 1) : Int) + ((f64Exp s.arg1 : Nat) - 1023) ∧
          (ilog2 ((f64Ilogb s.arg0).natAbs + 1) : Int) + ((f64Exp s.arg1 : Nat) - 1023) ≤ 7)) ∧
      ((-31 ≤ (ilog2 ((f64Ilogb s.arg0).natAbs + 1) : Int) + ((f64Exp s.arg1 : Nat) - 1023) ∧
          (ilog2 ((f64Ilogb s.arg0).natAbs + 1) : Int) + ((f64Exp s.arg1 : Nat) - 1023) ≤ 7) →
        ∃ t, fast_pow cpu s = fast_pow.L_2TAG_PACKET_4_0_2 cpu t ∧
          toInt32 (t.get (.g eax)) = f64Ilogb s.arg0 ∧ t.get (.m 16) = s.arg1 ∧
          (¬ cc_aboveEqual (fast_pow.L_2TAG_PACKET_4_0_2_1 cpu t) = true) ∧
          fast_pow cpu s = fast_pow.B1_5 cpu
            (fast_pow.L_2TAG_PACKET_4_0_2_2 cpu (fast_pow.L_2TAG_PACKET_4_0_2_1 cpu t))) := by
  obtain ⟨r1, r2⟩ := (pow_main_cases cpu s).2 h1 h2
  by_cases hc : (s.arg0 / 281474976710656 ≠ 16367 ∧ s.arg0 / 281474976710656 ≠ 16368) ∨
      s.arg1 / 2 ^ 52 % 2048 < 1035
  · obtain ⟨t, p, e, tr, n4, n5, hy, hk⟩ := r1 hc
    obtain ⟨f1, -⟩ := pow_L4_1_filter cpu t _ _ hk hy (arg1_lt s)
    by_cases hb : cc_aboveEqual (fast_pow.L_2TAG_PACKET_4_0_2_1 cpu t) = true
    · obtain ⟨l5, e5⟩ := pow_L4_taken cpu t hb
      have hr := mt f1.2 (not_not.2 hb)
      refine ⟨l5 ++ Label.L_2TAG_PACKET_5_0_2 :: Label.L_2TAG_PACKET_4_0_2 :: p, ?_, ?_,
        fun h => absurd h hr⟩
      · rw [e, e5, tr]
        simp
      · constructor
        · intro h
          exact absurd (by simp) h.2
        · intro h
          exact absurd h hr
    · obtain ⟨d1, d2⟩ := pow_L4_direct cpu t hb
      have hr := f1.1 hb
      refine ⟨Label.B1_5 :: Label.L_2TAG_PACKET_4_0_2 :: p, ?_, ?_,
        fun _ => ⟨t, e, hk, hy, hb, by rw [e, d1]⟩⟩
      · rw [e, d2, tr]
        simp
      · constructor
        · intro _
          exact hr
        · intro _
          refine ⟨by simp, ?_⟩
          simp [n5]
  · obtain ⟨l, e, hn⟩ := r2 hc
    have hE : f64Exp s.arg1 = s.arg1 / 2 ^ 52 % 2048 := rfl
    have hr : ¬ (-31 ≤ (ilog2 ((f64Ilogb s.arg0).natAbs + 1) : Int) +
          ((f64Exp s.arg1 : Nat) - 1023) ∧
        (ilog2 ((f64Ilogb s.arg0).natAbs + 1) : Int) + ((f64Exp s.arg1 : Nat) - 1023) ≤ 7) := by
      have hx : 16 ≤ s.arg0 / 281474976710656 % 32768 := by omega
      rw [f64Ilogb_normal _ hx, hE]
      have hk : s.arg0 / 281474976710656 % 32768 / 16 = 1022 ∨
          s.arg0 / 281474976710656 % 32768 / 16 = 1023 := by omega
      rcases hk with hk | hk
      · rw [hk]
        have e1 : (((1022 : Nat) : Int) - 1023).natAbs + 1 = 2 := by decide
        rw [e1, ilog2_one_two.2]
        omega
      · rw [hk]
        have e1 : (((1023 : Nat) : Int) - 1023).natAbs + 1 = 1 := by decide
        rw [e1, ilog2_one_two.1]
        omega
    refine ⟨l, e, ?_, fun h => absurd h hr⟩
    constructor
    · intro h
      exact absurd h.1 hn
    · intro h
      exact absurd h hr

set_option maxRecDepth 100000 in
theorem fast_pow_main_path_witness :
    (0 < (Machine.init 0x3FF07AE147AE147B 0x4000000000000000).arg0 ∧ (Machine.init 0x3FF07AE147AE147B 0x4000000000000000).arg0 < 0x7FF0000000000000) ∧
    ∃ l, (fast_pow Cpu.sample (Machine.init 0x3FF07AE147AE147B 0x4000000000000000)).trace = l ++ (Machine.init 0x3FF07AE147AE147B 0x4000000000000000).trace ∧
      ((Label.L_2TAG_PACKET_4_0_2 ∈ l ∧ Label.L_2TAG_PACKET_5_0_2 ∉ l) ↔
        (-31 ≤ (ilog2 ((f64Ilogb (Machine.init 0x3FF07AE147AE147B 0x4000000000000000).arg0).natAbs + 1) : Int) + ((f64Exp (Machine.init 0x3FF07AE147AE147B 0x4000000000000000).arg1 : Nat) - 1023) ∧
          (ilog2 ((f64Ilogb (Machine.init 0x3FF07AE147AE147B 0x4000000000000000).arg0).natAbs + 1) : Int) + ((f64Exp (Machine.init 0x3FF07AE147AE147B 0x4000000000000000).arg1 : Nat) - 1023) ≤ 7)) ∧
      ((-31 ≤ (ilog2 ((f64Ilogb (Machine.init 0x3FF07AE147AE147B 0x4000000000000000).arg0).natAbs + 1) : Int) + ((f64Exp (Machine.init 0x3FF07AE147AE147B 0x4000000000000000).arg1 : Nat) - 1023) ∧
          (ilog2 ((f64Ilogb (Machine.init 0x3FF07AE147AE147B 0x4000000000000000).arg0).natAbs + 1) : Int) + ((f64Exp (Machine.init 0x3FF07AE147AE147B 0x4000000000000000).arg1 : Nat) - 1023) ≤ 7) →
        ∃ t, fast_pow Cpu.sample (Machine.init 0x3FF07AE147AE147B 0x4000000000000000) = fast_pow.L_2TAG_PACKET_4_0_2 Cpu.sample t ∧
          toInt32 (t.get (.g eax)) = f64Ilogb (Machine.init 0x3FF07AE147AE147B 0x4000000000000000).arg0 ∧ t.get (.m 16) = (Machine.init 0x3FF07AE147AE147B 0x4000000000000000).arg1 ∧
          (¬ cc_aboveEqual (fast_pow.L_2TAG_PACKET_4_0_2_1 Cpu.sample t) = true) ∧
          fast_pow Cpu.sample (Machine.init 0x3FF07AE147AE147B 0x4000000000000000) = fast_pow.B1_5 Cpu.sample
            (fast_pow.L_2TAG_PACKET_4_0_2_2 Cpu.sample
              (fast_pow.L_2TAG_PACKET_4_0_2_1 Cpu.sample t))) :=
  ⟨by decide!, fast_pow_main_path Cpu.sample (Machine.init 0x3FF07AE147AE147B 0x4000000000000000) (by decide!) (by decide!)⟩

end MacroAssembler

namespace MacroAssembler
open XReg GReg Machine

/-! ### The integer and parity test of the negative-base path of `fast_pow` -/

/-- C27: for a finite base `x < 0` other than `-0` and a finite exponent `y` other than `±0`,
the labels `fast_pow` enters contain `L_2TAG_PACKET_34_0_2` exactly when `y` is not an
integer, `L_2TAG_PACKET_36_0_2` exactly when `y` is an odd integer and
`L_2TAG_PACKET_35_0_2` exactly when `y` is an even integer, whatever the exponent range of
`y`; after `L_2TAG_PACKET_36_0_2` the main path (`L_2TAG_PACKET_1_0_2`, or
`L_2TAG_PACKET_4_0_2` for a subnormal base) is entered with `tmp1 = 0x80000000`, after
`L_2TAG_PACKET_35_0_2` with `tmp1 = 0`. -/
theorem fast_pow_negative_base_parity (cpu : Cpu) (s : Machine)
    (hx1 : 0x8000000000000000 < s.arg0) (hx2 : s.arg0 < 0xFFF0000000000000)
    (hy0 : f64IsZero s.arg1 = false) (hyf : f64Exp s.arg1 < 2047) :
    ∃ l, (fast_pow cpu s).trace = l ++ s.trace ∧
      (Label.L_2TAG_PACKET_34_0_2 ∈ l ↔ f64IsInteger s.arg1 = false) ∧
      (Label.L_2TAG_PACKET_36_0_2 ∈ l ↔ f64IsOddInteger s.arg1 = true) ∧
      (Label.L_2TAG_PACKET_35_0_2 ∈ l ↔
        (f64IsInteger s.arg1 = true ∧ f64IsOddInteger s.arg1 = false)) ∧
      (f64IsOddInteger s.arg1 = true →
        ∃ u t, fast_pow cpu s = fast_pow.L_2TAG_PACKET_36_0_2 cpu u ∧
          (fast_pow.L_2TAG_PACKET_36_0_2 cpu u = fast_pow.L_2TAG_PACKET_1_0_2 cpu t ∨
            fast_pow.L_2TAG_PACKET_36_0_2 cpu u = fast_pow.L_2TAG_PACKET_4_0_2 cpu t) ∧
          t.get (.g tmp1) = 0x80000000) ∧
      (f64IsInteger s.arg1 = true → f64IsOddInteger s.arg1 = false →
        ∃ u t, fast_pow cpu s = fast_pow.L_2TAG_PACKET_35_0_2 cpu u ∧
          (fast_pow.L_2TAG_PACKET_35_0_2 cpu u = fast_pow.L_2TAG_PACKET_1_0_2 cpu t ∨
            fast_pow.L_2TAG_PACKET_35_0_2 cpu u = fast_pow.L_2TAG_PACKET_4_0_2 cpu t) ∧
          t.get (.g tmp1) = 0) := by
  obtain ⟨t, e0, m8, m16, tr⟩ := pow_neg_to_L7 cpu s hx1 hx2
  have hlt := arg1_lt s
  have hlt0 := arg0_lt s
  have hm : t.get (.m 16) % 18446744073709551616 = s.arg1 := by
    rw [m16]
    exact Nat.mod_eq_of_lt hlt
  have hz : s.arg1 % 9223372036854775808 ≠ 0 := by
    simp only [f64IsZero, f64Exp, f64Man, Nat.reducePow, decide_eq_false_iff_not] at hy0
    omega
  obtain ⟨u, p, um8, utr, hp, hc⟩ := pow_L7_cases cpu t (by rw [m8]; omega) (by rw [m16]; exact hz)
    (by rw [hm]; exact hyf)
  rw [hm] at hc
  have u1 : 9223372036854775808 < u.get (.m 8) := by rw [um8, m8]; exact hx1
  have u2 : u.get (.m 8) < 18446744073709551616 := by rw [um8, m8]; exact hlt0
  rcases hc with ⟨hi, e⟩ | ⟨ho, e⟩ | ⟨hi, ho, e⟩
  · have ho : f64IsOddInteger s.arg1 = false := by
      cases h : f64IsOddInteger s.arg1
      · rfl
      · rw [isOdd_isInteger _ h] at hi
        exact absurd hi (by decide)
    refine ⟨[Label.B1_5, Label.L_2TAG_PACKET_56_0_2, Label.B1_3, Label.L_2TAG_PACKET_17_0_2,
      Label.L_2TAG_PACKET_34_0_2] ++ p ++ [Label.L_2TAG_PACKET_7_0_2,
      Label.L_2TAG_PACKET_0_0_2, Label.B1_2, Label.start, Label.entry], ?_, ?_, ?_, ?_, ?_, ?_⟩
    · rw [e0, e, (pow_L34_run cpu u).2, utr, tr]
      simp
    · simp [hi]
    · rcases hp with rfl | rfl | rfl <;> simp [ho]
    · rcases hp with rfl | rfl | rfl <;> simp [hi]
    · intro h
      rw [ho] at h
      exact absurd h (by decide)
    · intro h
      rw [hi] at h
      exact absurd h (by decide)
  · have hi := isOdd_isInteger _ ho
    obtain ⟨l, el, hl⟩ := descends_lt _ _ _ _
      (fast_pow.pow_L_2TAG_PACKET_36_0_2_descends _ pow_rank_odd cpu u)
    have n34 : Label.L_2TAG_PACKET_34_0_2 ∉ l := fun hm => absurd (hl _ hm) (by decide)
    have n35 : Label.L_2TAG_PACKET_35_0_2 ∉ l := fun hm => absurd (hl _ hm) (by decide)
    refine ⟨l ++ [Label.L_2TAG_PACKET_36_0_2] ++ p ++ [Label.L_2TAG_PACKET_7_0_2,
      Label.L_2TAG_PACKET_0_0_2, Label.B1_2, Label.start, Label.entry], ?_, ?_, ?_, ?_, ?_, ?_⟩
    · rw [e0, e, el, utr, tr]
      simp
    · rcases hp with rfl | rfl | rfl <;> simp [hi, n34]
    · simp [ho]
    · rcases hp with rfl | rfl | rfl <;> simp [ho, n35]
    · intro _
      obtain ⟨t1, h1, h2⟩ := pow_L36_next cpu u u1 u2
      exact ⟨u, t1, by rw [e0, e], h1, h2⟩
    · intro _ h
      rw [ho] at h
      exact absurd h (by decide)
  · obtain ⟨l, el, hl⟩ := descends_lt _ _ _ _
      (fast_pow.pow_L_2TAG_PACKET_35_0_2_descends _ pow_edges_all cpu u)
    have n34 : Label.L_2TAG_PACKET_34_0_2 ∉ l := fun hm => absurd (hl _ hm) (by decide)
    have n36 : Label.L_2TAG_PACKET_36_0_2 ∉ l := fun hm => absurd (hl _ hm) (by decide)
    refine ⟨l ++ [Label.L_2TAG_PACKET_35_0_2] ++ p ++ [Label.L_2TAG_PACKET_7_0_2,
      Label.L_2TAG_PACKET_0_0_2, Label.B1_2, Label.start, Label.entry], ?_, ?_, ?_, ?_, ?_, ?_⟩
    · rw [e0, e, el, utr, tr]
      simp
    · rcases hp with rfl | rfl | rfl <;> simp [hi, n34]
    · rcases hp with rfl | rfl | rfl <;> simp [ho, n36]
    · simp [hi, ho]
    · intro h
      rw [ho] at h
      exact absurd h (by decide)
    · intro _ _
      obtain ⟨t1, h1, h2⟩ := pow_L35_next cpu u u1 u2
      exact ⟨u, t1, by rw [e0, e], h1, h2⟩

set_option maxRecDepth 100000 in
theorem fast_pow_negative_base_parity_witness :
    (0x8000000000000000 < (Machine.init 0xC020000000000000 0x4008000000000000).arg0 ∧
      (Machine.init 0xC020000000000000 0x4008000000000000).arg0 < 0xFFF0000000000000 ∧
      f64IsZero (Machine.init 0xC020000000000000 0x4008000000000000).arg1 = false ∧
      f64Exp (Machine.init 0xC020000000000000 0x4008000000000000).arg1 < 2047) ∧
    ∃ l, (fast_pow Cpu.sample (Machine.init 0xC020000000000000 0x4008000000000000)).trace = l ++ (Machine.init 0xC020000000000000 0x4008000000000000).trace ∧
      (Label.L_2TAG_PACKET_34_0_2 ∈ l ↔ f64IsInteger (Machine.init 0xC020000000000000 0x4008000000000000).arg1 = false) ∧
      (Label.L_2TAG_PACKET_36_0_2 ∈ l ↔ f64IsOddInteger (Machine.init 0xC020000000000000 0x4008000000000000).arg1 = true) ∧
      (Label.L_2TAG_PACKET_35_0_2 ∈ l ↔
        (f64IsInteger (Machine.init 0xC020000000000000 0x4008000000000000).arg1 = true ∧ f64IsOddInteger (Machine.init 0xC020000000000000 0x4008000000000000).arg1 = false)) ∧
      (f64IsOddInteger (Machine.init 0xC020000000000000 0x4008000000000000).arg1 = true →
        ∃ u t, fast_pow Cpu.sample (Machine.init 0xC020000000000000 0x4008000000000000) = fast_pow.L_2TAG_PACKET_36_0_2 Cpu.sample u ∧
          (fast_pow.L_2TAG_PACKET_36_0_2 Cpu.sample u =
              fast_pow.L_2TAG_PACKET_1_0_2 Cpu.sample t ∨
            fast_pow.L_2TAG_PACKET_36_0_2 Cpu.sample u =
              fast_pow.L_2TAG_PACKET_4_0_2 Cpu.sample t) ∧
          t.get (.g tmp1) = 0x80000000) ∧
      (f64IsInteger (Machine.init 0xC020000000000000 0x4008000000000000).arg1 = true → f64IsOddInteger (Machine.init 0xC020000000000000 0x4008000000000000).arg1 = false →
        ∃ u t, fast_pow Cpu.sample (Machine.init 0xC020000000000000 0x4008000000000000) = fast_pow.L_2TAG_PACKET_35_0_2 Cpu.sample u ∧
          (fast_pow.L_2TAG_PACKET_35_0_2 Cpu.sample u =
              fast_pow.L_2TAG_PACKET_1_0_2 Cpu.sample t ∨
            fast_pow.L_2TAG_PACKET_35_0_2 Cpu.sample u =
              fast_pow.L_2TAG_PACKET_4_0_2 Cpu.sample t) ∧
          t.get (.g tmp1) = 0) :=
  ⟨by decide!,
    fast_pow_negative_base_parity Cpu.sample (Machine.init 0xC020000000000000 0x4008000000000000)
      (by decide!) (by decide!) (by decide!) (by decide!)⟩

end MacroAssembler

namespace MacroAssembler
open XReg GReg Machine

/-! ### The main-path filter of `fast_pow` -/

/-- C28: whenever a run of `fast_pow` takes its main path, that is enters
`L_2TAG_PACKET_4_0_2` and does not enter `L_2TAG_PACKET_5_0_2` (the branch after
`cmpl(eax, 624)` falls through), it is at `L_2TAG_PACKET_4_0_2` in a state with `y` in its stack
slot and the unbiased binary exponent `k` of `|x|` in `eax`, and the integer
`s = floor(log2(|k| + 1)) + (Ey - 1023)` satisfies `-31 ≤ s ≤ 7` (`Ey` the exponent field of
`y`); consequently `|y| * (|k| + 1) < 2^9`.  In that state the branch falls through exactly
when `-31 ≤ s ≤ 7`. -/
theorem fast_pow_main_filter (cpu : Cpu) (s : Machine) (l : List Label)
    (hl : (fast_pow cpu s).trace = l ++ s.trace)
    (h4 : Label.L_2TAG_PACKET_4_0_2 ∈ l) (h5 : Label.L_2TAG_PACKET_5_0_2 ∉ l) :
    ∃ t, fast_pow cpu s = fast_pow.L_2TAG_PACKET_4_0_2 cpu t ∧
      t.get (.m 16) = s.arg1 ∧ toInt32 (t.get (.g eax)) = f64Ilogb s.arg0 ∧
      ((¬ cc_aboveEqual (fast_pow.L_2TAG_PACKET_4_0_2_1 cpu t) = true) ↔
        -31 ≤ (ilog2 ((f64Ilogb s.arg0).natAbs + 1) : Int) + ((f64Exp s.arg1 : Nat) - 1023) ∧
          (ilog2 ((f64Ilogb s.arg0).natAbs + 1) : Int) + ((f64Exp s.arg1 : Nat) - 1023) ≤ 7) ∧
      (¬ cc_aboveEqual (fast_pow.L_2TAG_PACKET_4_0_2_1 cpu t) = true) ∧
      -31 ≤ (ilog2 ((f64Ilogb s.arg0).natAbs + 1) : Int) + ((f64Exp s.arg1 : Nat) - 1023) ∧
      (ilog2 ((f64Ilogb s.arg0).natAbs + 1) : Int) + ((f64Exp s.arg1 : Nat) - 1023) ≤ 7 ∧
      f64Mag s.arg1 * ((f64Ilogb s.arg0).natAbs + 1) < 2 ^ 9 * 2 ^ 1075 := by
  rcases (pow_main_cases cpu s).1 with h | h
  · obtain ⟨t, p, e, tr, -, -, hy, hk⟩ := h
    obtain ⟨f1, f2⟩ := pow_L4_1_filter cpu t _ _ hk hy (arg1_lt s)
    have hn : ¬ cc_aboveEqual (fast_pow.L_2TAG_PACKET_4_0_2_1 cpu t) = true := by
      intro hc
      obtain ⟨l5, e5⟩ := pow_L4_taken cpu t hc
      rw [← e, hl, tr] at e5
      have e6 : l ++ s.trace = (l5 ++ Label.L_2TAG_PACKET_5_0_2 ::
          Label.L_2TAG_PACKET_4_0_2 :: p) ++ s.trace := by
        rw [e5]
        simp
      rw [List.append_cancel_right e6] at h5
      exact h5 (by simp)
    have hr := f1.1 hn
    exact ⟨t, e, hy, hk, f1, hn, hr.1, hr.2, f2 hn⟩
  · obtain ⟨l', e, hn⟩ := h
    rw [hl] at e
    rw [List.append_cancel_right e] at h4
    exact absurd h4 hn

set_option maxRecDepth 100000 in
theorem fast_pow_main_filter_witness :
    ((fast_pow Cpu.sample (Machine.init 0x4000000000000000 0x4024000000000000)).trace =
        [Label.B1_5, Label.L_2TAG_PACKET_4_0_2, Label.L_2TAG_PACKET_3_0_2,
          Label.L_2TAG_PACKET_1_0_2, Label.B1_2, Label.start, Label.entry] ++
          (Machine.init 0x4000000000000000 0x4024000000000000).trace ∧
      Label.L_2TAG_PACKET_4_0_2 ∈ [Label.B1_5, Label.L_2TAG_PACKET_4_0_2,
        Label.L_2TAG_PACKET_3_0_2, Label.L_2TAG_PACKET_1_0_2, Label.B1_2, Label.start,
        Label.entry] ∧
      Label.L_2TAG_PACKET_5_0_2 ∉ [Label.B1_5, Label.L_2TAG_PACKET_4_0_2,
        Label.L_2TAG_PACKET_3_0_2, Label.L_2TAG_PACKET_1_0_2, Label.B1_2, Label.start,
        Label.entry]) ∧
    ∃ t, fast_pow Cpu.sample (Machine.init 0x4000000000000000 0x4024000000000000) =
        fast_pow.L_2TAG_PACKET_4_0_2 Cpu.sample t ∧
      t.get (.m 16) = (Machine.init 0x4000000000000000 0x4024000000000000).arg1 ∧
      toInt32 (t.get (.g eax)) =
        f64Ilogb (Machine.init 0x4000000000000000 0x4024000000000000).arg0 ∧
      ((¬ cc_aboveEqual (fast_pow.L_2TAG_PACKET_4_0_2_1 Cpu.sample t) = true) ↔
        -31 ≤ (ilog2 ((f64Ilogb
              (Machine.init 0x4000000000000000 0x4024000000000000).arg0).natAbs + 1) : Int) +
            ((f64Exp (Machine.init 0x4000000000000000 0x4024000000000000).arg1 : Nat) - 1023) ∧
          (ilog2 ((f64Ilogb
              (Machine.init 0x4000000000000000 0x4024000000000000).arg0).natAbs + 1) : Int) +
            ((f64Exp (Machine.init 0x4000000000000000 0x4024000000000000).arg1 : Nat) - 1023)
            ≤ 7) ∧
      (¬ cc_aboveEqual (fast_pow.L_2TAG_PACKET_4_0_2_1 Cpu.sample t) = true) ∧
      -31 ≤ (ilog2 ((f64Ilogb
            (Machine.init 0x4000000000000000 0x4024000000000000).arg0).natAbs + 1) : Int) +
          ((f64Exp (Machine.init 0x4000000000000000 0x4024000000000000).arg1 : Nat) - 1023) ∧
      (ilog2 ((f64Ilogb
            (Machine.init 0x4000000000000000 0x4024000000000000).arg0).natAbs + 1) : Int) +
          ((f64Exp (Machine.init 0x4000000000000000 0x4024000000000000).arg1 : Nat) - 1023)
          ≤ 7 ∧
      f64Mag (Machine.init 0x4000000000000000 0x4024000000000000).arg1 *
          ((f64Ilogb (Machine.init 0x4000000000000000 0x4024000000000000).arg0).natAbs + 1) <
        2 ^ 9 * 2 ^ 1075 :=
  ⟨⟨by decide!, by decide, by decide⟩,
    fast_pow_main_filter Cpu.sample (Machine.init 0x4000000000000000 0x4024000000000000)
      [Label.B1_5, Label.L_2TAG_PACKET_4_0_2, Label.L_2TAG_PACKET_3_0_2,
        Label.L_2TAG_PACKET_1_0_2, Label.B1_2, Label.start, Label.entry]
      (by decide!) (by decide) (by decide)⟩

end MacroAssembler

namespace MacroAssembler
open XReg GReg Machine

/-! ### Classification of the argument of `fast_exp` -/

theorem exp_rank_main : ∀ b, ∀ c ∈ fast_exp.succ b,
    (fun x => if x ∈ [Label.B1_5, Label.B1_3, Label.L_2TAG_PACKET_6_0_2,
      Label.L_2TAG_PACKET_7_0_2, Label.L_2TAG_PACKET_2_0_2, Label.L_2TAG_PACKET_3_0_2,
      Label.L_2TAG_PACKET_4_0_2, Label.L_2TAG_PACKET_5_0_2, Label.L_2TAG_PACKET_1_0_2]
      then fast_exp.rank x else fast_exp.rank x + 100) c <
    (fun x => if x ∈ [Label.B1_5, Label.B1_3, Label.L_2TAG_PACKET_6_0_2,
      Label.L_2TAG_PACKET_7_0_2, Label.L_2TAG_PACKET_2_0_2, Label.L_2TAG_PACKET_3_0_2,
      Label.L_2TAG_PACKET_4_0_2, Label.L_2TAG_PACKET_5_0_2, Label.L_2TAG_PACKET_1_0_2]
      then fast_exp.rank x else fast_exp.rank x + 100) b := by
  intro b
  cases b <;> decide

theorem fast_exp_trace_split (cpu : Cpu) (s : Machine) :
    ∃ l, (fast_exp cpu s).trace = l ++ s.trace ∧
      (Label.L_2TAG_PACKET_0_0_2 ∈ l ↔
        cc_aboveEqual (fast_exp.start_1 cpu (fast_exp.entry_1 cpu s)) = true) := by
  have ht1 : (fast_exp.start_1 cpu (fast_exp.entry_1 cpu s)).trace =
      Label.start :: Label.entry :: s.trace := by
    rw [fast_exp.exp_start_1_trace, fast_exp.exp_entry_1_trace]
  rw [fast_exp, fast_exp.exp_entry_eq, fast_exp.exp_start_eq]
  by_cases h : cc_aboveEqual (fast_exp.start_1 cpu (fast_exp.entry_1 cpu s)) = true
  · rw [if_pos h]
    obtain ⟨l, e, -⟩ := descends_lt _ _ _ _
      (fast_exp.exp_L_2TAG_PACKET_0_0_2_descends fast_exp.rank exp_edges_all cpu
        (fast_exp.start_1 cpu (fast_exp.entry_1 cpu s)))
    refine ⟨l ++ [Label.L_2TAG_PACKET_0_0_2, Label.start, Label.entry], ?_, ?_⟩
    · rw [e, ht1]
      simp
    · simp [h]
  · rw [if_neg h]
    by_cases h2 : cc_above (fast_exp.start_2 cpu (fast_exp.start_1 cpu
        (fast_exp.entry_1 cpu s))) = true
    · rw [if_pos h2]
      obtain ⟨l, e, hl⟩ := descends_lt _ _ _ _
        (fast_exp.exp_L_2TAG_PACKET_1_0_2_descends _ exp_rank_main cpu
          (fast_exp.start_2 cpu (fast_exp.start_1 cpu (fast_exp.entry_1 cpu s))))
      refine ⟨l ++ [Label.L_2TAG_PACKET_1_0_2, Label.start, Label.entry], ?_, ?_⟩
      · rw [e, fast_exp.exp_start_2_trace, ht1]
        simp
      · simp only [h, iff_false, List.mem_append, List.mem_cons, List.mem_singleton,
          reduceCtorEq, or_false, List.not_mem_nil]
        intro hm
        exact absurd (hl _ hm) (by decide)
    · rw [if_neg h2]
      obtain ⟨l, e, hl⟩ := descends_lt _ _ _ _
        (fast_exp.exp_B1_5_descends _ exp_rank_main cpu
          (fast_exp.start_3 cpu (fast_exp.start_2 cpu (fast_exp.start_1 cpu
            (fast_exp.entry_1 cpu s)))))
      refine ⟨l ++ [Label.B1_5, Label.start, Label.entry], ?_, ?_⟩
      · rw [e, fast_exp.exp_start_3_trace, fast_exp.exp_start_2_trace, ht1]
        simp
      · simp only [h, iff_false, List.mem_append, List.mem_cons, List.mem_singleton,
          reduceCtorEq, or_false, List.not_mem_nil]
        intro hm
        exact absurd (hl _ hm) (by decide)

/-- C29: `fast_exp` takes the branch to `L_2TAG_PACKET_0_0_2`, away from the range reduction
and the polynomial, exactly when the top 16 bits of `|x|` are outside `[15504, 16527]`, that is
unless `2^-54 ≤ |x| < 2^10`; the labels a call enters contain `L_2TAG_PACKET_0_0_2` exactly
in that case.  For every finite `x` with `|x| ≥ 1024` the call goes through
`L_2TAG_PACKET_0_0_2` and `L_2TAG_PACKET_8_0_2` and returns `+Inf` when `x > 0` (through
`L_2TAG_PACKET_7_0_2`, `XMAX * XMAX`) and `+0` when `x < 0` (through `L_2TAG_PACKET_10_0_2`,
`XMIN * XMIN`). -/
theorem fast_exp_classification (cpu : Cpu) (s : Machine) :
    ((cc_aboveEqual (fast_exp.start_1 cpu (fast_exp.entry_1 cpu s)) = true) ↔
      ¬ (15504 ≤ s.arg0 / 2 ^ 48 % 32768 ∧ s.arg0 / 2 ^ 48 % 32768 ≤ 16527)) ∧
    (∃ l, (fast_exp cpu s).trace = l ++ s.trace ∧
      (Label.L_2TAG_PACKET_0_0_2 ∈ l ↔
        ¬ (15504 ≤ s.arg0 / 2 ^ 48 % 32768 ∧ s.arg0 / 2 ^ 48 % 32768 ≤ 16527))) ∧
    (f64IsFinite s.arg0 = true → 1033 ≤ f64Exp s.arg0 →
      (f64Sign s.arg0 = 0 → (fast_exp cpu s).result = 0x7FF0000000000000 ∧
        (fast_exp cpu s).trace = [Label.B1_5, Label.B1_3, Label.L_2TAG_PACKET_6_0_2,
          Label.L_2TAG_PACKET_7_0_2, Label.L_2TAG_PACKET_8_0_2, Label.L_2TAG_PACKET_0_0_2,
          Label.start, Label.entry] ++ s.trace) ∧
      (f64Sign s.arg0 = 1 → (fast_exp cpu s).result = 0 ∧
        (fast_exp cpu s).trace = [Label.B1_5, Label.B1_3, Label.L_2TAG_PACKET_6_0_2,
          Label.L_2TAG_PACKET_10_0_2, Label.L_2TAG_PACKET_8_0_2, Label.L_2TAG_PACKET_0_0_2,
          Label.start, Label.entry] ++ s.trace)) := by
  refine ⟨fast_exp_branch cpu s, ?_, ?_⟩
  · obtain ⟨l, e, h⟩ := fast_exp_trace_split cpu s
    exact ⟨l, e, h.trans (fast_exp_branch cpu s)⟩
  · intro hfin hbig
    have hlt := arg0_lt s
    simp only [f64IsFinite, f64Exp, f64Sign, Nat.reducePow, decide_eq_true_eq] at hfin hbig ⊢
    exact ⟨fun h => fast_exp_huge_pos_run cpu s (by omega) (by omega),
      fun h => fast_exp_huge_neg_run cpu s (by omega) (by omega)⟩

end MacroAssembler

namespace MacroAssembler
open XReg GReg Machine

theorem fast_log_normal_offset (cpu : Cpu) (s : Machine)
    (h1 : 0x0010000000000000 ≤ s.arg0) (h2 : s.arg0 < 0x7FF0000000000000) :
    (fast_log cpu s).get (.g edx) =
      fast_log.tblOffset (cpu.rcp (fast_log.rcpArg s.arg0) % 2 ^ 32) ∧
    (fast_log cpu s).get (.g tmp2) = Tbl.L_tbl.addr := by
  simp only [Machine.io_eq_get, Nat.reducePow] at h1 h2
  rw [
      fast_log, fast_log.log_entry_eq, fast_log.log_start_eq, if_neg,
      fast_log.log_L_2TAG_PACKET_1_0_2_eq, fast_log.log_B1_5_eq]
  · set_option maxRecDepth 8000 in
    simp only [
        ↓reduceIte, ↓fast_log.log_B1_5_1_sem, ↓fast_log.log_L_2TAG_PACKET_1_0_2_1_sem,
        ↓fast_log.log_start_2_sem, ↓fast_log.log_start_1_sem, ↓fast_log.log_entry_1_sem,
        ↓Machine.get_setx, ↓Machine.get_setg, ↓Machine.get_setstk, ↓Machine.get_enter,
        ↓Machine.get_setFlags, ↓Machine.trace_set, ↓Machine.get_ite, ↓Machine.trace_ite,
        ↓Machine.obs_eq_get, ↓Machine.flags_get, ↓Machine.flags_trace, ↓sem_get_1,
        ↓sem_get_2, ↓sem_get_3, ↓sem_get_4, ↓sem_trace_1, ↓sem_trace_2, ↓sem_trace_3,
        ↓sem_trace_4, ↓load_const, cc_iff, ea, and_imm, and_imm_left, ilog2_lit,
        or_eq_zero, or_mod32, or_lt_2p31, Nat.mod_mod, Nat.zero_or, Nat.or_zero,
        Nat.sub_zero, Nat.add_mod_right, lane_eq, Machine.io_eq_get, Nat.xor_self,
        Loc.x.injEq, Loc.g.injEq, Loc.m.injEq, Bool.toNat_eq_zero, Bool.toNat_eq_one,
        Nat.reducePow, Nat.reduceMul, Nat.reduceMod, Nat.reduceAdd, Nat.reduceSub,
        Nat.reduceDiv, Nat.reduceEqDiff, Nat.reduceLTLE, Nat.reduceLeDiff, Nat.reduceLT,
        Nat.reduceGT, Nat.reduceOr, Nat.reduceXor, reduceCtorEq, Bool.not_eq_true',
        Bool.not_eq_true, decide_eq_true_eq, decide_eq_false_iff_not, Bool.and_eq_true,
        Bool.or_eq_true, bne_iff_ne, beq_iff_eq, ne_eq, Bool.not_eq_false',
        Bool.not_eq_false, decide_not, not_not, Bool.decide_eq_true, Bool.false_eq_true,
        Bool.true_eq_false, not_false_eq_true, not_true_eq_false, and_true, true_and,
        and_false, false_and, or_true, true_or, or_false, false_or, not_true,
        not_false_iff, iff_self, true_iff, iff_true, false_iff, iff_false, ite_self,
        decide_eq_decide, decide_False, decide_True, Bool.not_true, Bool.not_false]
    simp only [mkdw_dw0, mk128_dw0, fast_log.tblOffset, fast_log.rcpArg, Nat.reducePow, and_imm, Nat.mod_mod, or_mod64, Nat.reduceMod, mod_div4_mod, and_true]
    all_goals omega
  · set_option maxRecDepth 8000 in
    simp only [
        ↓reduceIte, ↓fast_log.log_start_1_sem, ↓fast_log.log_entry_1_sem,
        ↓Machine.get_setx, ↓Machine.get_setg, ↓Machine.get_setstk, ↓Machine.get_enter,
        ↓Machine.get_setFlags, ↓Machine.trace_set, ↓Machine.get_ite, ↓Machine.trace_ite,
        ↓Machine.obs_eq_get, ↓Machine.flags_get, ↓Machine.flags_trace, ↓sem_get_1,
        ↓sem_get_2, ↓sem_get_3, ↓sem_get_4, ↓sem_trace_1, ↓sem_trace_2, ↓sem_trace_3,
        ↓sem_trace_4, ↓load_const, cc_iff, ea, and_imm, and_imm_left, ilog2_lit,
        or_eq_zero, or_mod32, or_lt_2p31, Nat.mod_mod, Nat.zero_or, Nat.or_zero,
        Nat.sub_zero, Nat.add_mod_right, lane_eq, Machine.io_eq_get, Nat.xor_self,
        Loc.x.injEq, Loc.g.injEq, Loc.m.injEq, Bool.toNat_eq_zero, Bool.toNat_eq_one,
        Nat.reducePow, Nat.reduceMul, Nat.reduceMod, Nat.reduceAdd, Nat.reduceSub,
        Nat.reduceDiv, Nat.reduceEqDiff, Nat.reduceLTLE, Nat.reduceLeDiff, Nat.reduceLT,
        Nat.reduceGT, Nat.reduceOr, Nat.reduceXor, reduceCtorEq, Bool.not_eq_true',
        Bool.not_eq_true, decide_eq_true_eq, decide_eq_false_iff_not, Bool.and_eq_true,
        Bool.or_eq_true, bne_iff_ne, beq_iff_eq, ne_eq, Bool.not_eq_false',
        Bool.not_eq_false, decide_not, not_not, Bool.decide_eq_true, Bool.false_eq_true,
        Bool.true_eq_false, not_false_eq_true, not_true_eq_false, and_true, true_and,
        and_false, false_and, or_true, true_or, or_false, false_or, not_true,
        not_false_iff, iff_self, true_iff, iff_true, false_iff, iff_false, ite_self,
        decide_eq_decide, decide_False, decide_True, Bool.not_true, Bool.not_false]
    all_goals omega

theorem f64Add_zero_subnormal (x : Nat) (h0 : 0 < x) (h : x < 4503599627370496) :
    f64Add 0 x = x := by
  have he : f64Exp x = 0 := by
    simp only [f64Exp, Nat.reducePow]
    omega
  have n1 : f64IsNaN x = false := by simp [f64IsNaN, he]
  have n2 : f64IsInf x = false := by simp [f64IsInf, he]
  have e1 : f64E x = 1 := by simp [f64E, he]
  have s1 : f64Sig x = x := by
    simp only [f64Sig, he, f64Man, if_true, Nat.reducePow]
    omega
  have g1 : f64Sign x = 0 := by
    simp only [f64Sign, Nat.reducePow]
    omega
  have n3 : f64IsNaN 0 = false := by decide
  have n4 : f64IsInf 0 = false := by decide
  have e2 : f64E 0 = 1 := by decide
  have s2 : f64Sig 0 = 0 := by decide
  have g2 : f64Sign 0 = 0 := by decide
  have hx : x < 2 ^ (2 ^ 12) := Nat.lt_of_lt_of_le h (by decide!)
  obtain ⟨a, -⟩ := ilog2Aux_spec 12 x h0 hx
  have hl : ilog2 x < 52 :=
    (Nat.pow_lt_pow_iff_right (by decide : 1 < 2)).1 (Nat.lt_of_le_of_lt a h)
  unfold f64Add f64AddCore
  simp only [n1, n2, n3, n4, e1, e2, s1, s2, g1, g2, Bool.false_eq_true, if_false, false_and,
    if_true, Nat.min_self, Nat.sub_self, Nat.pow_zero, Nat.mul_one, Nat.zero_add,
    Nat.reduceAdd]
  unfold roundPack roundPackG
  have hq : max (ilog2 x + 2926 - 52) (2925 + 1) = 2926 := by omega
  simp only [if_neg (Nat.pos_iff_ne_zero.1 h0), hq, Nat.le_refl, if_true, Nat.sub_self,
    Nat.pow_zero, Nat.mul_one, Nat.zero_mul, Nat.zero_add, Nat.reduceAdd, Nat.reducePow,
    Nat.reduceSub, Nat.reduceMul]
  rw [if_neg (by omega)]

theorem fast_log_subnormal_offset (cpu : Cpu) (s : Machine)
    (h1 : 0 < s.arg0) (h2 : s.arg0 < 0x0010000000000000) :
    (fast_log cpu s).get (.g edx) = fast_log.tblOffset
      (cpu.rcp (fast_log.rcpArg (f64Mul s.arg0 0x47F0000000000000)) % 2 ^ 32) ∧
    (fast_log cpu s).get (.g tmp2) = Tbl.L_tbl.addr := by
  simp only [Machine.io_eq_get, Nat.reducePow] at h1 h2
  have hM := f64Mul_lt (s.get (.x xmm0) % 18446744073709551616) 5183643171103440896 (by omega)
    (by omega)
  have hA := f64Add_zero_subnormal (s.get (.x xmm0) % 18446744073709551616) h1 h2
  rw [
      fast_log, fast_log.log_entry_eq, fast_log.log_start_eq, if_pos,
      fast_log.log_L_2TAG_PACKET_0_0_2_eq, if_neg, if_pos,
      fast_log.log_L_2TAG_PACKET_3_0_2_eq, if_neg, fast_log.log_L_2TAG_PACKET_1_0_2_eq,
      fast_log.log_B1_5_eq]
  · set_option maxRecDepth 8000 in
    simp only [
        ↓reduceIte, hA, ↓fast_log.log_B1_5_1_sem, ↓fast_log.log_L_2TAG_PACKET_1_0_2_1_sem,
        ↓fast_log.log_L_2TAG_PACKET_3_0_2_2_sem, ↓fast_log.log_L_2TAG_PACKET_3_0_2_1_sem,
        ↓fast_log.log_L_2TAG_PACKET_0_0_2_2_sem, ↓fast_log.log_L_2TAG_PACKET_0_0_2_1_sem,
        ↓fast_log.log_start_1_sem, ↓fast_log.log_entry_1_sem, ↓Machine.get_setx,
        ↓Machine.get_setg, ↓Machine.get_setstk, ↓Machine.get_enter, ↓Machine.get_setFlags,
        ↓Machine.trace_set, ↓Machine.get_ite, ↓Machine.trace_ite, ↓Machine.obs_eq_get,
        ↓Machine.flags_get, ↓Machine.flags_trace, ↓sem_get_1, ↓sem_get_2, ↓sem_get_3,
        ↓sem_get_4, ↓sem_trace_1, ↓sem_trace_2, ↓sem_trace_3, ↓sem_trace_4, ↓load_const,
        cc_iff, ea, and_imm, and_imm_left, ilog2_lit, or_eq_zero, or_mod32, or_lt_2p31,
        Nat.mod_mod, Nat.zero_or, Nat.or_zero, Nat.sub_zero, Nat.add_mod_right, lane_eq,
        Machine.io_eq_get, Nat.xor_self, Loc.x.injEq, Loc.g.injEq, Loc.m.injEq,
        Bool.toNat_eq_zero, Bool.toNat_eq_one, Nat.reducePow, Nat.reduceMul,
        Nat.reduceMod, Nat.reduceAdd, Nat.reduceSub, Nat.reduceDiv, Nat.reduceEqDiff,
        Nat.reduceLTLE, Nat.reduceLeDiff, Nat.reduceLT, Nat.reduceGT, Nat.reduceOr,
        Nat.reduceXor, reduceCtorEq, Bool.not_eq_true', Bool.not_eq_true,
        decide_eq_true_eq, decide_eq_false_iff_not, Bool.and_eq_true, Bool.or_eq_true,
        bne_iff_ne, beq_iff_eq, ne_eq, Bool.not_eq_false', Bool.not_eq_false, decide_not,
        not_not, Bool.decide_eq_true, Bool.false_eq_true, Bool.true_eq_false,
        not_false_eq_true, not_true_eq_false, and_true, true_and, and_false, false_and,
        or_true, true_or, or_false, false_or, not_true, not_false_iff, iff_self, true_iff,
        iff_true, false_iff, iff_false, ite_self, decide_eq_decide, decide_False,
        decide_True, Bool.not_true, Bool.not_false]
    simp only [mkdw_dw0, mk128_dw0, fast_log.tblOffset, fast_log.rcpArg, Nat.reducePow, and_imm, Nat.mod_mod, Nat.add_mul_mod_self_left, or_mod64, Nat.reduceMod, mod_div4_mod, Nat.mod_eq_of_lt hM, and_true]
    all_goals omega
  · set_option maxRecDepth 8000 in
    simp only [
        ↓reduceIte, hA, ↓fast_log.log_L_2TAG_PACKET_3_0_2_1_sem,
        ↓fast_log.log_L_2TAG_PACKET_0_0_2_2_sem, ↓fast_log.log_L_2TAG_PACKET_0_0_2_1_sem,
        ↓fast_log.log_start_1_sem, ↓fast_log.log_entry_1_sem, ↓Machine.get_setx,
        ↓Machine.get_setg, ↓Machine.get_setstk, ↓Machine.get_enter, ↓Machine.get_setFlags,
        ↓Machine.trace_set, ↓Machine.get_ite, ↓Machine.trace_ite, ↓Machine.obs_eq_get,
        ↓Machine.flags_get, ↓Machine.flags_trace, ↓sem_get_1, ↓sem_get_2, ↓sem_get_3,
        ↓sem_get_4, ↓sem_trace_1, ↓sem_trace_2, ↓sem_trace_3, ↓sem_trace_4, ↓load_const,
        cc_iff, ea, and_imm, and_imm_left, ilog2_lit, or_eq_zero, or_mod32, or_lt_2p31,
        Nat.mod_mod, Nat.zero_or, Nat.or_zero, Nat.sub_zero, Nat.add_mod_right, lane_eq,
        Machine.io_eq_get, Nat.xor_self, Loc.x.injEq, Loc.g.injEq, Loc.m.injEq,
        Bool.toNat_eq_zero, Bool.toNat_eq_one, Nat.reducePow, Nat.reduceMul,
        Nat.reduceMod, Nat.reduceAdd, Nat.reduceSub, Nat.reduceDiv, Nat.reduceEqDiff,
        Nat.reduceLTLE, Nat.reduceLeDiff, Nat.reduceLT, Nat.reduceGT, Nat.reduceOr,
        Nat.reduceXor, reduceCtorEq, Bool.not_eq_true', Bool.not_eq_true,
        decide_eq_true_eq, decide_eq_false_iff_not, Bool.and_eq_true, Bool.or_eq_true,
        bne_iff_ne, beq_iff_eq, ne_eq, Bool.not_eq_false', Bool.not_eq_false, decide_not,
        not_not, Bool.decide_eq_true, Bool.false_eq_true, Bool.true_eq_false,
        not_false_eq_true, not_true_eq_false, and_true, true_and, and_false, false_and,
        or_true, true_or, or_false, false_or, not_true, not_false_iff, iff_self, true_iff,
        iff_true, false_iff, iff_false, ite_self, decide_eq_decide, decide_False,
        decide_True, Bool.not_true, Bool.not_false]
    all_goals omega
  · set_option maxRecDepth 8000 in
    simp only [
        ↓reduceIte, hA, ↓fast_log.log_L_2TAG_PACKET_0_0_2_2_sem,
        ↓fast_log.log_L_2TAG_PACKET_0_0_2_1_sem, ↓fast_log.log_start_1_sem,
        ↓fast_log.log_entry_1_sem, ↓Machine.get_setx, ↓Machine.get_setg,
        ↓Machine.get_setstk, ↓Machine.get_enter, ↓Machine.get_setFlags,
        ↓Machine.trace_set, ↓Machine.get_ite, ↓Machine.trace_ite, ↓Machine.obs_eq_get,
        ↓Machine.flags_get, ↓Machine.flags_trace, ↓sem_get_1, ↓sem_get_2, ↓sem_get_3,
        ↓sem_get_4, ↓sem_trace_1, ↓sem_trace_2, ↓sem_trace_3, ↓sem_trace_4, ↓load_const,
        cc_iff, ea, and_imm, and_imm_left, ilog2_lit, or_eq_zero, or_mod32, or_lt_2p31,
        Nat.mod_mod, Nat.zero_or, Nat.or_zero, Nat.sub_zero, Nat.add_mod_right, lane_eq,
        Machine.io_eq_get, Nat.xor_self, Loc.x.injEq, Loc.g.injEq, Loc.m.injEq,
        Bool.toNat_eq_zero, Bool.toNat_eq_one, Nat.reducePow, Nat.reduceMul,
        Nat.reduceMod, Nat.reduceAdd, Nat.reduceSub, Nat.reduceDiv, Nat.reduceEqDiff,
        Nat.reduceLTLE, Nat.reduceLeDiff, Nat.reduceLT, Nat.reduceGT, Nat.reduceOr,
        Nat.reduceXor, reduceCtorEq, Bool.not_eq_true', Bool.not_eq_true,
        decide_eq_true_eq, decide_eq_false_iff_not, Bool.and_eq_true, Bool.or_eq_true,
        bne_iff_ne, beq_iff_eq, ne_eq, Bool.not_eq_false', Bool.not_eq_false, decide_not,
        not_not, Bool.decide_eq_true, Bool.false_eq_true, Bool.true_eq_false,
        not_false_eq_true, not_true_eq_false, and_true, true_and, and_false, false_and,
        or_true, true_or, or_false, false_or, not_true, not_false_iff, iff_self, true_iff,
        iff_true, false_iff, iff_false, ite_self, decide_eq_decide, decide_False,
        decide_True, Bool.not_true, Bool.not_false]
    all_goals omega
  · set_option maxRecDepth 8000 in
    simp only [
        ↓reduceIte, hA, ↓fast_log.log_L_2TAG_PACKET_0_0_2_1_sem,
        ↓fast_log.log_start_1_sem, ↓fast_log.log_entry_1_sem, ↓Machine.get_setx,
        ↓Machine.get_setg, ↓Machine.get_setstk, ↓Machine.get_enter, ↓Machine.get_setFlags,
        ↓Machine.trace_set, ↓Machine.get_ite, ↓Machine.trace_ite, ↓Machine.obs_eq_get,
        ↓Machine.flags_get, ↓Machine.flags_trace, ↓sem_get_1, ↓sem_get_2, ↓sem_get_3,
        ↓sem_get_4, ↓sem_trace_1, ↓sem_trace_2, ↓sem_trace_3, ↓sem_trace_4, ↓load_const,
        cc_iff, ea, and_imm, and_imm_left, ilog2_lit, or_eq_zero, or_mod32, or_lt_2p31,
        Nat.mod_mod, Nat.zero_or, Nat.or_zero, Nat.sub_zero, Nat.add_mod_right, lane_eq,
        Machine.io_eq_get, Nat.xor_self, Loc.x.injEq, Loc.g.injEq, Loc.m.injEq,
        Bool.toNat_eq_zero, Bool.toNat_eq_one, Nat.reducePow, Nat.reduceMul,
        Nat.reduceMod, Nat.reduceAdd, Nat.reduceSub, Nat.reduceDiv, Nat.reduceEqDiff,
        Nat.reduceLTLE, Nat.reduceLeDiff, Nat.reduceLT, Nat.reduceGT, Nat.reduceOr,
        Nat.reduceXor, reduceCtorEq, Bool.not_eq_true', Bool.not_eq_true,
        decide_eq_true_eq, decide_eq_false_iff_not, Bool.and_eq_true, Bool.or_eq_true,
        bne_iff_ne, beq_iff_eq, ne_eq, Bool.not_eq_false', Bool.not_eq_false, decide_not,
        not_not, Bool.decide_eq_true, Bool.false_eq_true, Bool.true_eq_false,
        not_false_eq_true, not_true_eq_false, and_true, true_and, and_false, false_and,
        or_true, true_or, or_false, false_or, not_true, not_false_iff, iff_self, true_iff,
        iff_true, false_iff, iff_false, ite_self, decide_eq_decide, decide_False,
        decide_True, Bool.not_true, Bool.not_false]
    all_goals omega
  · set_option maxRecDepth 8000 in
    simp only [
        ↓reduceIte, hA, ↓fast_log.log_start_1_sem, ↓fast_log.log_entry_1_sem,
        ↓Machine.get_setx, ↓Machine.get_setg, ↓Machine.get_setstk, ↓Machine.get_enter,
        ↓Machine.get_setFlags, ↓Machine.trace_set, ↓Machine.get_ite, ↓Machine.trace_ite,
        ↓Machine.obs_eq_get, ↓Machine.flags_get, ↓Machine.flags_trace, ↓sem_get_1,
        ↓sem_get_2, ↓sem_get_3, ↓sem_get_4, ↓sem_trace_1, ↓sem_trace_2, ↓sem_trace_3,
        ↓sem_trace_4, ↓load_const, cc_iff, ea, and_imm, and_imm_left, ilog2_lit,
        or_eq_zero, or_mod32, or_lt_2p31, Nat.mod_mod, Nat.zero_or, Nat.or_zero,
        Nat.sub_zero, Nat.add_mod_right, lane_eq, Machine.io_eq_get, Nat.xor_self,
        Loc.x.injEq, Loc.g.injEq, Loc.m.injEq, Bool.toNat_eq_zero, Bool.toNat_eq_one,
        Nat.reducePow, Nat.reduceMul, Nat.reduceMod, Nat.reduceAdd, Nat.reduceSub,
        Nat.reduceDiv, Nat.reduceEqDiff, Nat.reduceLTLE, Nat.reduceLeDiff, Nat.reduceLT,
        Nat.reduceGT, Nat.reduceOr, Nat.reduceXor, reduceCtorEq, Bool.not_eq_true',
        Bool.not_eq_true, decide_eq_true_eq, decide_eq_false_iff_not, Bool.and_eq_true,
        Bool.or_eq_true, bne_iff_ne, beq_iff_eq, ne_eq, Bool.not_eq_false',
        Bool.not_eq_false, decide_not, not_not, Bool.decide_eq_true, Bool.false_eq_true,
        Bool.true_eq_false, not_false_eq_true, not_true_eq_false, and_true, true_and,
        and_false, false_and, or_true, true_or, or_false, false_or, not_true,
        not_false_iff, iff_self, true_iff, iff_true, false_iff, iff_false, ite_self,
        decide_eq_decide, decide_False, decide_True, Bool.not_true, Bool.not_false]
    all_goals omega

/-! ### The operand of the estimate and the offset bound -/

theorem or_127 : ∀ x, x < 128 → x ||| 127 = 127 := by decide

theorem rcpArg_fields (v : Nat) :
    f32Sign (fast_log.rcpArg v) = 0 ∧ f32Exp (fast_log.rcpArg v) = 127 ∧
    fast_log.rcpArg v < 4294967296 := by
  have e1 : (v ||| 0x3ff0000000000000) / 2 ^ 52 % 2 ^ 7 = 127 := by
    rw [or_div_pow, or_mod_pow]
    exact or_127 _ (Nat.mod_lt _ (by decide))
  simp only [Nat.reducePow] at e1
  simp only [f32Sign, f32Exp, fast_log.rcpArg, Nat.reducePow]
  omega

theorem tblOffset_bound (a f : Nat) (ha : f32Exp a = 127) (hf : f < 4294967296)
    (h : rcpWithin a f = true) :
    fast_log.tblOffset f % 16 = 0 ∧ fast_log.tblOffset f ≤ 2048 := by
  simp only [rcpWithin, decide_eq_true_eq, f32Mag] at h
  obtain ⟨hs, he, h3, h4⟩ := h
  have hEa : f32E a = 127 := by simp [f32E, ha]
  have hSa : f32Sig a = 2 ^ 23 + f32Man a := by simp [f32Sig, ha]
  have hma : f32Man a < 2 ^ 23 := Nat.mod_lt _ (by decide)
  rw [hEa, hSa] at h3 h4
  generalize hP : f32Sig f * 2 ^ f32E f = P at h3 h4
  have u1 : (2 ^ 23 + f32Man a) * 2 ^ 127 * P ≤ 2 ^ 24 * 2 ^ 127 * P :=
    Nat.mul_le_mul_right P (Nat.mul_le_mul_right _ (by omega))
  have u2 : 2 ^ 23 * 2 ^ 127 * P ≤ (2 ^ 23 + f32Man a) * 2 ^ 127 * P :=
    Nat.mul_le_mul_right P (Nat.mul_le_mul_right _ (by omega))
  generalize (2 ^ 23 + f32Man a) * 2 ^ 127 * P = K at h3 h4 u1 u2
  simp only [Nat.reducePow, Nat.reduceMul, Nat.reduceSub, Nat.reduceAdd] at h3 h4 u1 u2
  have lo : 713362509495184659789203113026239970204975104 ≤ P := by omega
  have hi : P ≤ 1427770366421550442538165712846510332355543040 := by omega
  clear h3 h4 u1 u2
  simp only [f32Sign, f32Exp, Nat.reducePow] at hs he
  have hmf : f32Man f < 2 ^ 23 := Nat.mod_lt _ (by decide)
  have hf2 : f = f / 8388608 % 256 * 8388608 + f32Man f := by
    simp only [f32Man, Nat.reducePow]
    omega
  simp only [fast_log.tblOffset, and_imm, Nat.reducePow]
  by_cases c1 : f / 8388608 % 256 ≤ 124
  · exfalso
    have hE : f32E f ≤ 124 := by
      simp only [f32E, f32Exp, Nat.reducePow]
      split_ifs <;> omega
    have hS : f32Sig f < 2 ^ 24 := by
      simp only [f32Sig]
      split_ifs <;> omega
    have := Nat.mul_lt_mul_of_lt_of_le hS (Nat.pow_le_pow_right (by decide : 0 < 2) hE)
      (Nat.two_pow_pos 124)
    rw [hP] at this
    simp only [Nat.reducePow, Nat.reduceMul] at this
    omega
  by_cases c2 : 128 ≤ f / 8388608 % 256
  · exfalso
    have hE : 128 ≤ f32E f := by
      simp only [f32E, f32Exp, Nat.reducePow]
      split_ifs <;> omega
    have hS : 2 ^ 23 ≤ f32Sig f := by
      simp only [f32Sig, f32Exp, Nat.reducePow]
      rw [if_neg (by omega)]
      omega
    have := Nat.mul_le_mul hS (Nat.pow_le_pow_right (by decide : 0 < 2) hE)
    rw [hP] at this
    simp only [Nat.reducePow, Nat.reduceMul] at this
    omega
  have hS : f32Sig f = 8388608 + f32Man f := by
    simp only [f32Sig, f32Exp, Nat.reducePow]
    rw [if_neg (by omega)]
  have hE : f32E f = f / 8388608 % 256 := by
    simp only [f32E, f32Exp, Nat.reducePow]
    rw [if_neg (by omega)]
  rw [hS, hE] at hP
  simp only [Nat.reducePow] at hmf
  have c3 : f / 8388608 % 256 = 125 ∨ f / 8388608 % 256 = 126 ∨ f / 8388608 % 256 = 127 := by
    omega
  rcases c3 with c | c | c <;> rw [c] at hP hf2 <;>
    simp only [Nat.reducePow, Nat.reduceMul] at hP hf2 <;> omega

set_option maxRecDepth 100000 in
/-- C30: for every positive finite non-zero argument `x` of `fast_log`, lane 0 of the operand
of `rcpps` (the truncated mantissa of `x`, or of `x * 2^128` when `x` is subnormal) is a
binary32 number in `[1, 2)`, and if the estimate `f` returned for it has relative error at
most `1.5 * 2^-12`, then the value of `edx` that addresses `_L_tbl` (base address in `tmp2`)
is `((bits(f) + 0x8000) & 0xFF0000) >> 12`, a multiple of 16 in `[0, 2048]`, so the 16-byte
load stays inside the 516 words of the table. -/
theorem fast_log_table_offset (cpu : Cpu) (s : Machine)
    (h1 : 0 < s.arg0) (h2 : s.arg0 < 0x7FF0000000000000)
    (h3 : rcpWithin (fast_log.rcpOperand s.arg0)
      (cpu.rcp (fast_log.rcpOperand s.arg0) % 2 ^ 32) = true) :
    (f32Sign (fast_log.rcpOperand s.arg0) = 0 ∧ f32Exp (fast_log.rcpOperand s.arg0) = 127) ∧
    (fast_log cpu s).get (.g tmp2) = Tbl.L_tbl.addr ∧
    (fast_log cpu s).get (.g edx) =
      fast_log.tblOffset (cpu.rcp (fast_log.rcpOperand s.arg0) % 2 ^ 32) ∧
    (fast_log cpu s).get (.g edx) % 16 = 0 ∧
    (fast_log cpu s).get (.g edx) ≤ 2048 ∧
    (fast_log cpu s).get (.g edx) + 16 ≤ 4 * Tbl.L_tbl.data.length := by
  have hl : Tbl.L_tbl.data.length = 516 := by decide
  have hb := tblOffset_bound _ _ (rcpArg_fields _).2.1
    (Nat.mod_lt (cpu.rcp (fast_log.rcpOperand s.arg0)) (by decide : 0 < 2 ^ 32)) h3
  have hr : (fast_log cpu s).get (.g edx) =
      fast_log.tblOffset (cpu.rcp (fast_log.rcpOperand s.arg0) % 2 ^ 32) ∧
      (fast_log cpu s).get (.g tmp2) = Tbl.L_tbl.addr := by
    unfold fast_log.rcpOperand
    by_cases c : s.arg0 < 2 ^ 52
    · rw [if_pos c]
      exact fast_log_subnormal_offset cpu s h1 c
    · rw [if_neg c]
      exact fast_log_normal_offset cpu s (by simp only [Nat.reducePow] at c; omega) h2
  refine ⟨⟨(rcpArg_fields _).1, (rcpArg_fields _).2.1⟩, hr.2, hr.1, ?_, ?_, ?_⟩
  · rw [hr.1]
    exact hb.1
  · rw [hr.1]
    exact hb.2
  · rw [hr.1, hl]
    exact Nat.le_trans (Nat.add_le_add_right hb.2 16) (by decide)

set_option maxRecDepth 100000 in
theorem fast_log_table_offset_witness :
    (0 < (Machine.init 0x3FF0300000000000 0).arg0 ∧
      (Machine.init 0x3FF0300000000000 0).arg0 < 0x7FF0000000000000 ∧
      rcpWithin (fast_log.rcpOperand (Machine.init 0x3FF0300000000000 0).arg0)
        (Cpu.sample.rcp (fast_log.rcpOperand (Machine.init 0x3FF0300000000000 0).arg0)
          % 2 ^ 32) = true) ∧
    (fast_log Cpu.sample (Machine.init 0x3FF0300000000000 0)).get (.g edx) % 16 = 0 ∧
    (fast_log Cpu.sample (Machine.init 0x3FF0300000000000 0)).get (.g edx) ≤ 2048 :=
  ⟨by decide!, by
    have h := fast_log_table_offset Cpu.sample (Machine.init 0x3FF0300000000000 0)
      (by decide!) (by decide!) (by decide!)
    exact ⟨h.2.2.2.1, h.2.2.2.2.1⟩⟩

end MacroAssembler
